import Mathlib

/-! # The TCG op-emission layer (`tcg/tcg-op.c`)

A shallow embedding of the instruction-selection engine of `tcg/tcg-op.c`.

* The op stream is a list of `TCGOp` records owned by a `TCGContext`; every
  `tcg_gen_*` routine is a state-passing emitter in the monad `Gen`, which
  either aborts (a failed `tcg_debug_assert`, `tcg_abort`) or returns the
  extended context.
* The emitted ops are given a meaning by the interpreter `exec_op` / `run`
  over a `Machine` (a register file indexed by temporaries and a byte
  memory), so that "the value computed by `tcg_gen_x`" is the content of the
  destination temporary after running the ops that `tcg_gen_x` appended.
* Machine integers are natural numbers reduced modulo `2^32` / `2^64`;
  a C `int32_t` / `int64_t` immediate is represented by its two's-complement
  bit pattern.
-/

set_option autoImplicit false

namespace TCG

/-! ## Values: the arithmetic of the primitive ops -/

/-- Sign-extension of the low `len` bits of `x` to a `w`-bit pattern. -/
def sext (w len x : Nat) : Nat :=
  (x % 2 ^ len) ||| (if x.testBit (len - 1) then (2 ^ (w - len) - 1) <<< len else 0)

/-- Arithmetic right shift of the `w`-bit pattern `x` by `n`. -/
def sar (w x n : Nat) : Nat :=
  (((x % 2 ^ w) >>> n) ||| (if x.testBit (w - 1) then (2 ^ n - 1) <<< (w - n) else 0)) % 2 ^ w

/-- The value of a constant shift of the 64-bit pattern `x`: `right` selects a
right shift, `arith` an arithmetic one. -/
def shift64 (right arith : Bool) (x c : Nat) : Nat :=
  if right then (if arith then sar 64 x c else x >>> c) else (x <<< c) % 2 ^ 64

/-- Bitwise complement of a `w`-bit pattern. -/
def bnot (w x : Nat) : Nat := (2 ^ w - 1) ^^^ (x % 2 ^ w)

/-- The signed value of a `w`-bit pattern. -/
def toInt (w x : Nat) : Int :=
  if (x % 2 ^ w) < 2 ^ (w - 1) then ((x % 2 ^ w : Nat) : Int) else ((x % 2 ^ w : Nat) : Int) - 2 ^ w

/-- Number of leading zero bits of the `w`-bit pattern `x` (`w` for `x = 0`). -/
def clz (w x : Nat) : Nat := w - Nat.size (x % 2 ^ w)

/-- Rotate the `w`-bit pattern `x` left by `n`. -/
def rotl (w x n : Nat) : Nat :=
  (((x % 2 ^ w) <<< (n % w)) ||| ((x % 2 ^ w) >>> (w - n % w))) % 2 ^ w

/-- Rotate the `w`-bit pattern `x` right by `n`. -/
def rotr (w x n : Nat) : Nat :=
  (((x % 2 ^ w) >>> (n % w)) ||| ((x % 2 ^ w) <<< (w - n % w))) % 2 ^ w

/-- The byte of `x` at byte index `i`. -/
def byte (x i : Nat) : Nat := (x >>> (8 * i)) % 256

/-- Reversal of the two low bytes. -/
def bswap16 (x : Nat) : Nat := byte x 0 <<< 8 ||| byte x 1

/-- Reversal of the four low bytes. -/
def bswap32 (x : Nat) : Nat :=
  byte x 0 <<< 24 ||| byte x 1 <<< 16 ||| byte x 2 <<< 8 ||| byte x 3

/-- Reversal of the eight low bytes. -/
def bswap64 (x : Nat) : Nat :=
  byte x 0 <<< 56 ||| byte x 1 <<< 48 ||| byte x 2 <<< 40 ||| byte x 3 <<< 32 |||
  byte x 4 <<< 24 ||| byte x 5 <<< 16 ||| byte x 6 <<< 8 ||| byte x 7

/-! ## Op records, the emission context and the host back end -/

/-- An op argument: a temporary index, an immediate or a packed constant. -/
abbrev TCGArg := Nat

/-- A 32-bit temporary, named by its index. -/
abbrev TCGv_i32 := Nat

/-- A 64-bit temporary, named by its index.  On a 32-bit host it is the pair of
32-bit temporaries `TCGV_LOW`, `TCGV_HIGH`. -/
abbrev TCGv_i64 := Nat

/-- Comparison conditions (`TCGCond`). -/
inductive TCGCond
  | NEVER | ALWAYS | EQ | NE | LT | GE | LE | GT | LTU | GEU | LEU | GTU
  deriving DecidableEq, Repr

/-- Runtime helper routines reachable from the lowering routines modelled here. -/
inductive Helper
  | clz_i32 | clz_i64
  | shl_i64 | shr_i64 | sar_i64
  | cheri_invalidate_tags | cheri_invalidate_tags_mmu_idx
  | cheri_invalidate_tags_condition | cheri_break_loadlink
  | qemu_log_instr_load32 | qemu_log_instr_load64
  | qemu_log_instr_store32 | qemu_log_instr_store64
  | exit_atomic
  | atomic_cmpxchg
  | atomic_fetch_add | atomic_fetch_and | atomic_fetch_or | atomic_fetch_xor
  | atomic_fetch_smin | atomic_fetch_umin | atomic_fetch_smax | atomic_fetch_umax
  | atomic_add_fetch | atomic_and_fetch | atomic_or_fetch | atomic_xor_fetch
  | atomic_smin_fetch | atomic_umin_fetch | atomic_smax_fetch | atomic_umax_fetch
  | atomic_xchg
  | trace_guest_mem_before_exec | plugin_empty_mem_callback
  | rvfi_dii_set_field | rvfi_dii_set_field_const
  | ctz_i32 | ctz_i64 | ctpop_i32 | ctpop_i64
  | muluh_i64 | mulsh_i64
  | div_i32 | rem_i32 | divu_i32 | remu_i32
  | div_i64 | rem_i64 | divu_i64 | remu_i64
  | clrsb_i32 | clrsb_i64
  deriving DecidableEq, Repr

/-- Opcode tags (`INDEX_op_*`) of the ops emitted by the routines of `tcg-op.c`. -/
inductive TCGOpcode
  | mov_i32 | movi_i32 | add_i32 | sub_i32 | mul_i32 | and_i32 | or_i32 | xor_i32
  | shl_i32 | shr_i32 | sar_i32 | rotl_i32 | rotr_i32 | neg_i32 | not_i32 | andc_i32
  | ext8s_i32 | ext16s_i32 | ext8u_i32 | ext16u_i32 | bswap16_i32 | bswap32_i32
  | deposit_i32 | extract_i32 | sextract_i32 | extract2_i32
  | setcond_i32 | movcond_i32 | setcond2_i32 | clz_i32 | add2_i32 | sub2_i32
  | mov_i64 | movi_i64 | add_i64 | sub_i64 | mul_i64 | and_i64 | or_i64 | xor_i64
  | shl_i64 | shr_i64 | sar_i64 | rotl_i64 | rotr_i64 | neg_i64 | not_i64 | andc_i64
  | ext8s_i64 | ext16s_i64 | ext32s_i64 | ext8u_i64 | ext16u_i64 | ext32u_i64
  | bswap16_i64 | bswap32_i64 | bswap64_i64
  | deposit_i64 | extract_i64 | sextract_i64 | extract2_i64
  | setcond_i64 | movcond_i64 | clz_i64
  | extu_i32_i64 | ext_i32_i64 | extrl_i64_i32 | extrh_i64_i32
  | qemu_ld_i32 | qemu_st_i32 | qemu_ld_i64 | qemu_st_i64
  | mb
  | call
  | ctz_i32 | ctpop_i32 | ctz_i64 | ctpop_i64
  | muluh_i32 | mulsh_i32 | mulu2_i32 | muls2_i32
  | muluh_i64 | mulsh_i64 | mulu2_i64 | muls2_i64 | add2_i64 | sub2_i64
  | br | brcond_i32 | brcond2_i32 | brcond_i64
  | div_i32 | divu_i32 | rem_i32 | remu_i32 | div2_i32 | divu2_i32
  | div_i64 | divu_i64 | rem_i64 | remu_i64 | div2_i64 | divu2_i64
  | eqv_i32 | nand_i32 | nor_i32 | orc_i32 | eqv_i64 | nand_i64 | nor_i64 | orc_i64
  | discard | sync
  | ld8u_i32 | ld8s_i32 | ld16u_i32 | ld16s_i32 | ld_i32 | st_i32
  | ld8u_i64 | ld8s_i64 | ld16u_i64 | ld16s_i64 | ld32u_i64 | ld32s_i64 | ld_i64 | st_i64
  deriving DecidableEq, Repr

/-- An op record: an opcode tag and its ordered argument list. -/
structure TCGOp where
  opc : TCGOpcode
  args : List TCGArg
  deriving DecidableEq, Repr

/-- The per-translation-unit emission context (`tcg_ctx`): the op stream, the
number of temporaries handed out so far and the execution-mode flags. -/
structure TCGContext where
  ops : List TCGOp
  nb_temps : Nat
  tb_cflags : Nat
  deriving DecidableEq, Repr

/-- The host back end and the build configuration: every `TCG_TARGET_*` macro,
`TCG_TARGET_*_valid` predicate and `#ifdef` that the lowering routines consult.
The fields for 64-bit ops hold the back end's own answer; the macros
`TCG_TARGET_HAS_*_i64` below combine them with the host word size. -/
structure TCGTarget where
  /-- `TCG_TARGET_REG_BITS == 64` -/
  reg64 : Bool
  TCG_TARGET_HAS_neg_i32 : Bool
  TCG_TARGET_HAS_not_i32 : Bool
  TCG_TARGET_HAS_andc_i32 : Bool
  TCG_TARGET_HAS_ext8s_i32 : Bool
  TCG_TARGET_HAS_ext16s_i32 : Bool
  TCG_TARGET_HAS_ext8u_i32 : Bool
  TCG_TARGET_HAS_ext16u_i32 : Bool
  TCG_TARGET_HAS_bswap16_i32 : Bool
  TCG_TARGET_HAS_bswap32_i32 : Bool
  TCG_TARGET_HAS_rot_i32 : Bool
  TCG_TARGET_HAS_deposit_i32 : Bool
  TCG_TARGET_HAS_extract_i32 : Bool
  TCG_TARGET_HAS_sextract_i32 : Bool
  TCG_TARGET_HAS_extract2_i32 : Bool
  TCG_TARGET_HAS_movcond_i32 : Bool
  TCG_TARGET_HAS_clz_i32 : Bool
  TCG_TARGET_deposit_i32_valid : Nat → Nat → Bool
  TCG_TARGET_extract_i32_valid : Nat → Nat → Bool
  has_neg_i64 : Bool
  has_not_i64 : Bool
  has_andc_i64 : Bool
  has_ext8s_i64 : Bool
  has_ext16s_i64 : Bool
  has_ext32s_i64 : Bool
  has_ext8u_i64 : Bool
  has_ext16u_i64 : Bool
  has_ext32u_i64 : Bool
  has_bswap16_i64 : Bool
  has_bswap32_i64 : Bool
  has_bswap64_i64 : Bool
  has_rot_i64 : Bool
  has_deposit_i64 : Bool
  has_extract_i64 : Bool
  has_sextract_i64 : Bool
  has_extract2_i64 : Bool
  has_movcond_i64 : Bool
  has_clz_i64 : Bool
  has_extrl_i64_i32 : Bool
  has_extrh_i64_i32 : Bool
  TCG_TARGET_deposit_i64_valid : Nat → Nat → Bool
  TCG_TARGET_extract_i64_valid : Nat → Nat → Bool
  /-- `TCG_GUEST_DEFAULT_MO`, when the guest defines it -/
  TCG_GUEST_DEFAULT_MO : Option Nat
  /-- `TCG_TARGET_DEFAULT_MO` -/
  TCG_TARGET_DEFAULT_MO : Nat
  /-- The assertion made by `get_alignment_bits` (memop.h) on a `MemOp` -/
  alignment_valid : Nat → Bool
  TCG_TARGET_HAS_MEMORY_BSWAP : Bool
  /-- `TARGET_LONG_BITS == 64` -/
  target_long64 : Bool
  /-- `trace_mem_get_info` (trace/mem.h): packs a `MemOp`, an MMU index and the
  store flag into the word handed to the trace and plugin hooks -/
  trace_mem_get_info : Nat → Nat → Bool → Nat
  /-- The `guest_mem_before` trace event is enabled -/
  trace_guest_mem : Bool
  /-- `CONFIG_PLUGIN` is defined and `tcg_ctx->plugin_insn != NULL` -/
  plugin_insn : Bool
  CONFIG_TCG_LOG_INSTR : Bool
  tcg_ctx_logging_enabled : Bool
  TARGET_CHERI : Bool
  TARGET_MIPS : Bool
  TARGET_RISCV : Bool
  /-- `TARGET_AARCH64`, which defines `CHERI_INVALIDATE_RESPECT_IDX` -/
  TARGET_AARCH64 : Bool
  CONFIG_RVFI_DII : Bool
  CONFIG_SOFTMMU : Bool
  CONFIG_ATOMIC64 : Bool
  TCG_TARGET_HAS_ctz_i32 : Bool
  TCG_TARGET_HAS_ctpop_i32 : Bool
  has_ctz_i64 : Bool
  has_ctpop_i64 : Bool
  /-- The condition checked by the `ASSERT_IF_CHERI()` macro, which is defined
  outside the sources, holds -/
  ASSERT_IF_CHERI : Bool
  TCG_TARGET_HAS_mulu2_i32 : Bool
  TCG_TARGET_HAS_muls2_i32 : Bool
  TCG_TARGET_HAS_muluh_i32 : Bool
  TCG_TARGET_HAS_mulsh_i32 : Bool
  has_mulu2_i64 : Bool
  has_muls2_i64 : Bool
  has_muluh_i64 : Bool
  has_mulsh_i64 : Bool
  has_add2_i64 : Bool
  has_sub2_i64 : Bool
  TCG_TARGET_HAS_div_i32 : Bool
  TCG_TARGET_HAS_rem_i32 : Bool
  TCG_TARGET_HAS_div2_i32 : Bool
  TCG_TARGET_HAS_eqv_i32 : Bool
  TCG_TARGET_HAS_nand_i32 : Bool
  TCG_TARGET_HAS_nor_i32 : Bool
  TCG_TARGET_HAS_orc_i32 : Bool
  /-- The back end's own answer for `add2_i32`, consulted on a 64-bit host -/
  has_add2_i32 : Bool
  /-- The back end's own answer for `sub2_i32`, consulted on a 64-bit host -/
  has_sub2_i32 : Bool
  has_div_i64 : Bool
  has_rem_i64 : Bool
  has_div2_i64 : Bool
  has_eqv_i64 : Bool
  has_nand_i64 : Bool
  has_nor_i64 : Bool
  has_orc_i64 : Bool
  TCG_TARGET_HAS_goto_ptr : Bool
  HOST_WORDS_BIGENDIAN : Bool

namespace TCGTarget

/-! The 64-bit capability macros.  `tcg.h` is not among the sources; on a host
whose natural word is 32 bits it defines every `TCG_TARGET_HAS_*_i64` macro
as 0, so that 64-bit operations are decomposed into low/high word pairs. -/

/-- Modelled from the spec: `TCG_TARGET_HAS_neg_i64` (tcg.h), 0 on a 32-bit host. -/
def TCG_TARGET_HAS_neg_i64 (T : TCGTarget) : Bool := T.reg64 && T.has_neg_i64
/-- Modelled from the spec: `TCG_TARGET_HAS_not_i64` (tcg.h), 0 on a 32-bit host. -/
def TCG_TARGET_HAS_not_i64 (T : TCGTarget) : Bool := T.reg64 && T.has_not_i64
/-- Modelled from the spec: `TCG_TARGET_HAS_andc_i64` (tcg.h), 0 on a 32-bit host. -/
def TCG_TARGET_HAS_andc_i64 (T : TCGTarget) : Bool := T.reg64 && T.has_andc_i64
/-- Modelled from the spec: `TCG_TARGET_HAS_ext8s_i64` (tcg.h), 0 on a 32-bit host. -/
def TCG_TARGET_HAS_ext8s_i64 (T : TCGTarget) : Bool := T.reg64 && T.has_ext8s_i64
/-- Modelled from the spec: `TCG_TARGET_HAS_ext16s_i64` (tcg.h), 0 on a 32-bit host. -/
def TCG_TARGET_HAS_ext16s_i64 (T : TCGTarget) : Bool := T.reg64 && T.has_ext16s_i64
/-- Modelled from the spec: `TCG_TARGET_HAS_ext32s_i64` (tcg.h), 0 on a 32-bit host. -/
def TCG_TARGET_HAS_ext32s_i64 (T : TCGTarget) : Bool := T.reg64 && T.has_ext32s_i64
/-- Modelled from the spec: `TCG_TARGET_HAS_ext8u_i64` (tcg.h), 0 on a 32-bit host. -/
def TCG_TARGET_HAS_ext8u_i64 (T : TCGTarget) : Bool := T.reg64 && T.has_ext8u_i64
/-- Modelled from the spec: `TCG_TARGET_HAS_ext16u_i64` (tcg.h), 0 on a 32-bit host. -/
def TCG_TARGET_HAS_ext16u_i64 (T : TCGTarget) : Bool := T.reg64 && T.has_ext16u_i64
/-- Modelled from the spec: `TCG_TARGET_HAS_ext32u_i64` (tcg.h), 0 on a 32-bit host. -/
def TCG_TARGET_HAS_ext32u_i64 (T : TCGTarget) : Bool := T.reg64 && T.has_ext32u_i64
/-- Modelled from the spec: `TCG_TARGET_HAS_bswap16_i64` (tcg.h), 0 on a 32-bit host. -/
def TCG_TARGET_HAS_bswap16_i64 (T : TCGTarget) : Bool := T.reg64 && T.has_bswap16_i64
/-- Modelled from the spec: `TCG_TARGET_HAS_bswap32_i64` (tcg.h), 0 on a 32-bit host. -/
def TCG_TARGET_HAS_bswap32_i64 (T : TCGTarget) : Bool := T.reg64 && T.has_bswap32_i64
/-- Modelled from the spec: `TCG_TARGET_HAS_bswap64_i64` (tcg.h), 0 on a 32-bit host. -/
def TCG_TARGET_HAS_bswap64_i64 (T : TCGTarget) : Bool := T.reg64 && T.has_bswap64_i64
/-- Modelled from the spec: `TCG_TARGET_HAS_rot_i64` (tcg.h), 0 on a 32-bit host. -/
def TCG_TARGET_HAS_rot_i64 (T : TCGTarget) : Bool := T.reg64 && T.has_rot_i64
/-- Modelled from the spec: `TCG_TARGET_HAS_deposit_i64` (tcg.h), 0 on a 32-bit host. -/
def TCG_TARGET_HAS_deposit_i64 (T : TCGTarget) : Bool := T.reg64 && T.has_deposit_i64
/-- Modelled from the spec: `TCG_TARGET_HAS_extract_i64` (tcg.h), 0 on a 32-bit host. -/
def TCG_TARGET_HAS_extract_i64 (T : TCGTarget) : Bool := T.reg64 && T.has_extract_i64
/-- Modelled from the spec: `TCG_TARGET_HAS_sextract_i64` (tcg.h), 0 on a 32-bit host. -/
def TCG_TARGET_HAS_sextract_i64 (T : TCGTarget) : Bool := T.reg64 && T.has_sextract_i64
/-- Modelled from the spec: `TCG_TARGET_HAS_extract2_i64` (tcg.h), 0 on a 32-bit host. -/
def TCG_TARGET_HAS_extract2_i64 (T : TCGTarget) : Bool := T.reg64 && T.has_extract2_i64
/-- Modelled from the spec: `TCG_TARGET_HAS_movcond_i64` (tcg.h), 0 on a 32-bit host. -/
def TCG_TARGET_HAS_movcond_i64 (T : TCGTarget) : Bool := T.reg64 && T.has_movcond_i64
/-- Modelled from the spec: `TCG_TARGET_HAS_clz_i64` (tcg.h), 0 on a 32-bit host. -/
def TCG_TARGET_HAS_clz_i64 (T : TCGTarget) : Bool := T.reg64 && T.has_clz_i64
/-- Modelled from the spec: `TCG_TARGET_HAS_extrl_i64_i32` (tcg.h), 0 on a 32-bit host. -/
def TCG_TARGET_HAS_extrl_i64_i32 (T : TCGTarget) : Bool := T.reg64 && T.has_extrl_i64_i32
/-- Modelled from the spec: `TCG_TARGET_HAS_extrh_i64_i32` (tcg.h), 0 on a 32-bit host. -/
def TCG_TARGET_HAS_extrh_i64_i32 (T : TCGTarget) : Bool := T.reg64 && T.has_extrh_i64_i32

/-- Modelled from the spec: `TCG_TARGET_HAS_ctz_i64` (tcg.h), 0 on a 32-bit host. -/
def TCG_TARGET_HAS_ctz_i64 (T : TCGTarget) : Bool := T.reg64 && T.has_ctz_i64
/-- Modelled from the spec: `TCG_TARGET_HAS_ctpop_i64` (tcg.h), 0 on a 32-bit host. -/
def TCG_TARGET_HAS_ctpop_i64 (T : TCGTarget) : Bool := T.reg64 && T.has_ctpop_i64

/-- Modelled from the spec: `TCG_TARGET_HAS_mulu2_i64` (tcg.h), 0 on a 32-bit host. -/
def TCG_TARGET_HAS_mulu2_i64 (T : TCGTarget) : Bool := T.reg64 && T.has_mulu2_i64
/-- Modelled from the spec: `TCG_TARGET_HAS_muls2_i64` (tcg.h), 0 on a 32-bit host. -/
def TCG_TARGET_HAS_muls2_i64 (T : TCGTarget) : Bool := T.reg64 && T.has_muls2_i64
/-- Modelled from the spec: `TCG_TARGET_HAS_muluh_i64` (tcg.h), 0 on a 32-bit host. -/
def TCG_TARGET_HAS_muluh_i64 (T : TCGTarget) : Bool := T.reg64 && T.has_muluh_i64
/-- Modelled from the spec: `TCG_TARGET_HAS_mulsh_i64` (tcg.h), 0 on a 32-bit host. -/
def TCG_TARGET_HAS_mulsh_i64 (T : TCGTarget) : Bool := T.reg64 && T.has_mulsh_i64
/-- Modelled from the spec: `TCG_TARGET_HAS_add2_i64` (tcg.h), 0 on a 32-bit host. -/
def TCG_TARGET_HAS_add2_i64 (T : TCGTarget) : Bool := T.reg64 && T.has_add2_i64
/-- Modelled from the spec: `TCG_TARGET_HAS_sub2_i64` (tcg.h), 0 on a 32-bit host. -/
def TCG_TARGET_HAS_sub2_i64 (T : TCGTarget) : Bool := T.reg64 && T.has_sub2_i64

/-- Modelled from the spec: `TCG_TARGET_HAS_add2_i32` (tcg.h), 1 on a 32-bit host, where
the paired add is how 64-bit additions are done. -/
def TCG_TARGET_HAS_add2_i32 (T : TCGTarget) : Bool := !T.reg64 || T.has_add2_i32
/-- Modelled from the spec: `TCG_TARGET_HAS_sub2_i32` (tcg.h), 1 on a 32-bit host. -/
def TCG_TARGET_HAS_sub2_i32 (T : TCGTarget) : Bool := !T.reg64 || T.has_sub2_i32
/-- Modelled from the spec: `TCG_TARGET_HAS_div_i64` (tcg.h), 0 on a 32-bit host. -/
def TCG_TARGET_HAS_div_i64 (T : TCGTarget) : Bool := T.reg64 && T.has_div_i64
/-- Modelled from the spec: `TCG_TARGET_HAS_rem_i64` (tcg.h), 0 on a 32-bit host. -/
def TCG_TARGET_HAS_rem_i64 (T : TCGTarget) : Bool := T.reg64 && T.has_rem_i64
/-- Modelled from the spec: `TCG_TARGET_HAS_div2_i64` (tcg.h), 0 on a 32-bit host. -/
def TCG_TARGET_HAS_div2_i64 (T : TCGTarget) : Bool := T.reg64 && T.has_div2_i64
/-- Modelled from the spec: `TCG_TARGET_HAS_eqv_i64` (tcg.h), 0 on a 32-bit host. -/
def TCG_TARGET_HAS_eqv_i64 (T : TCGTarget) : Bool := T.reg64 && T.has_eqv_i64
/-- Modelled from the spec: `TCG_TARGET_HAS_nand_i64` (tcg.h), 0 on a 32-bit host. -/
def TCG_TARGET_HAS_nand_i64 (T : TCGTarget) : Bool := T.reg64 && T.has_nand_i64
/-- Modelled from the spec: `TCG_TARGET_HAS_nor_i64` (tcg.h), 0 on a 32-bit host. -/
def TCG_TARGET_HAS_nor_i64 (T : TCGTarget) : Bool := T.reg64 && T.has_nor_i64
/-- Modelled from the spec: `TCG_TARGET_HAS_orc_i64` (tcg.h), 0 on a 32-bit host. -/
def TCG_TARGET_HAS_orc_i64 (T : TCGTarget) : Bool := T.reg64 && T.has_orc_i64

end TCGTarget

/-- The low word of a 64-bit temporary on a 32-bit host. -/
def TCGV_LOW (t : TCGv_i64) : TCGv_i32 := t

/-- The high word of a 64-bit temporary on a 32-bit host. -/
def TCGV_HIGH (t : TCGv_i64) : TCGv_i32 := t + 1

/-! ## The machine on which the emitted ops run -/

/-! ### `MemOp` encoding (memop.h) -/

/-- Modelled from the spec: the `MemOp` bits of memop.h. -/
def MO_8 : Nat := 0
def MO_16 : Nat := 1
def MO_32 : Nat := 2
def MO_64 : Nat := 3
def MO_SIZE : Nat := 3
def MO_SIGN : Nat := 4
def MO_BSWAP : Nat := 8
def MO_SSIZE : Nat := 7
def MO_ASHIFT : Nat := 4
def MO_AMASK : Nat := 7 <<< 4

/-- Number of trailing zero bits of the `w`-bit pattern `x` (`w` for `x = 0`). -/
def ctz (w x : Nat) : Nat := ((List.range w).find? (fun i => x.testBit i)).getD w

/-- Number of set bits of the `w`-bit pattern `x`. -/
def ctpop (w x : Nat) : Nat := ((List.range w).filter (fun i => x.testBit i)).length

/-- The signed product of the `w`-bit patterns `x` and `y`, as a `2w`-bit
two's-complement pattern. -/
def muls (w x y : Nat) : Nat := Int.toNat ((toInt w x * toInt w y) % (2 : Int) ^ (2 * w))

/-- Byte swap of a value of `MemOp` size `size` (1, 2, 4 or 8 bytes). -/
def bswap_size (size x : Nat) : Nat :=
  if size = 1 then bswap16 x else if size = 2 then bswap32 x
  else if size = 3 then bswap64 x else x

/-- The `n`-byte value stored at `addr`, least significant byte first. -/
def ldn (mem : Nat → Nat) (addr : Nat) : Nat → Nat
  | 0 => 0
  | n + 1 => mem addr % 256 + 256 * ldn mem (addr + 1) n

/-- Memory after storing the low `n` bytes of `v` at `addr`, least significant
byte first. -/
def stn (mem : Nat → Nat) (addr n v : Nat) : Nat → Nat :=
  fun a => if addr ≤ a ∧ a < addr + n then (v >>> (8 * (a - addr))) % 256 else mem a

/-- The value a guest load with `MemOp` `memop` at address `ea` puts in a
`w`-bit container: the bytes in host order (the host is taken little-endian),
swapped under `MO_BSWAP`, sign-extended under `MO_SIGN`. -/
def mem_ld (w : Nat) (mem : Nat → Nat) (ea memop : Nat) : Nat :=
  let size := memop &&& MO_SIZE
  let raw := ldn mem ea (2 ^ size)
  let v := if memop &&& MO_BSWAP ≠ 0 then bswap_size size raw else raw
  (if memop &&& MO_SIGN ≠ 0 then sext w (8 * 2 ^ size) v else v) % 2 ^ w

/-- Memory after a guest store of `v` with `MemOp` `memop` at address `ea`. -/
def mem_st (mem : Nat → Nat) (ea memop v : Nat) : Nat → Nat :=
  let size := memop &&& MO_SIZE
  let x := v % 2 ^ (8 * 2 ^ size)
  stn mem ea (2 ^ size) (if memop &&& MO_BSWAP ≠ 0 then bswap_size size x else x)

/-- The state the generated code acts on: one value per temporary and a
byte-addressed guest memory. -/
structure Machine where
  regs : Nat → Nat
  mem : Nat → Nat

/-- Write `v` to temporary `t`. -/
def Machine.set (m : Machine) (t v : Nat) : Machine :=
  { m with regs := fun i => if i = t then v else m.regs i }

/-- Encoding of a condition as an op argument (`tcg-cond.h`). -/
def TCGCond.toArg : TCGCond → TCGArg
  | .NEVER => 0 | .ALWAYS => 1 | .EQ => 8 | .NE => 9
  | .LT => 2 | .GE => 3 | .LE => 10 | .GT => 11
  | .LTU => 4 | .GEU => 5 | .LEU => 12 | .GTU => 13

/-- Decoding of a condition argument. -/
def TCGCond.ofArg (a : TCGArg) : TCGCond :=
  if a = 1 then .ALWAYS else if a = 8 then .EQ else if a = 9 then .NE
  else if a = 2 then .LT else if a = 3 then .GE else if a = 10 then .LE
  else if a = 11 then .GT else if a = 4 then .LTU else if a = 5 then .GEU
  else if a = 12 then .LEU else if a = 13 then .GTU else .NEVER

/-- The comparison `a cond b` on `w`-bit patterns. -/
def TCGCond.eval (w : Nat) (c : TCGCond) (a b : Nat) : Bool :=
  match c with
  | .NEVER => false
  | .ALWAYS => true
  | .EQ => a % 2 ^ w == b % 2 ^ w
  | .NE => a % 2 ^ w != b % 2 ^ w
  | .LT => toInt w a < toInt w b
  | .GE => toInt w b ≤ toInt w a
  | .LE => toInt w a ≤ toInt w b
  | .GT => toInt w b < toInt w a
  | .LTU => a % 2 ^ w < b % 2 ^ w
  | .GEU => b % 2 ^ w ≤ a % 2 ^ w
  | .LEU => a % 2 ^ w ≤ b % 2 ^ w
  | .GTU => b % 2 ^ w < a % 2 ^ w

/-- The bit-field insert `(x & ~(mask << ofs)) | ((y & mask) << ofs)` on `w`-bit
patterns, `mask = 2^len - 1`. -/
def deposit (w x y ofs len : Nat) : Nat :=
  ((x % 2 ^ w) &&& bnot w ((2 ^ len - 1) <<< ofs)) ||| (((y &&& (2 ^ len - 1)) <<< ofs) % 2 ^ w)

/-- The `w` bits starting at bit `ofs` of the `2w`-bit value `ah:al`. -/
def extract2 (w al ah ofs : Nat) : Nat :=
  ((al % 2 ^ w + (ah % 2 ^ w) * 2 ^ w) >>> ofs) % 2 ^ w

/-- The 64-bit value held by the register pair `lo`, `hi`. -/
def pair64 (lo hi : Nat) : Nat := (lo % 2 ^ 32) ||| ((hi % 2 ^ 32) <<< 32)

/-- Write the 64-bit value `v` to the register pair `lo`, `hi`. -/
def Machine.setPair (m : Machine) (lo hi v : Nat) : Machine :=
  (m.set lo (v % 2 ^ 32)).set hi ((v >>> 32) % 2 ^ 32)

/-- Modelled from the spec: the value an atomic read-modify-write family leaves
in memory, computed at the access width `bits` from the prior value `old` and
the operand `v` (`v` the expected and `v2` the new value for compare-and-swap);
"min = (a < b) ? a : b", "max swaps the selected branches". -/
def atomic_new (h : Helper) (bits old v v2 : Nat) : Nat :=
  match h with
  | .atomic_cmpxchg => if old = v then v2 else old
  | .atomic_fetch_add | .atomic_add_fetch => (old + v) % 2 ^ bits
  | .atomic_fetch_and | .atomic_and_fetch => old &&& v
  | .atomic_fetch_or | .atomic_or_fetch => old ||| v
  | .atomic_fetch_xor | .atomic_xor_fetch => old ^^^ v
  | .atomic_fetch_smin | .atomic_smin_fetch => if toInt bits old < toInt bits v then old else v
  | .atomic_fetch_umin | .atomic_umin_fetch => if old < v then old else v
  | .atomic_fetch_smax | .atomic_smax_fetch => if toInt bits old < toInt bits v then v else old
  | .atomic_fetch_umax | .atomic_umax_fetch => if old < v then v else old
  | .atomic_xchg => v
  | _ => old

/-- The op-then-fetch families return the new value, the others the prior one. -/
def atomic_returns_new (h : Helper) : Bool :=
  match h with
  | .atomic_add_fetch | .atomic_and_fetch | .atomic_or_fetch | .atomic_xor_fetch
  | .atomic_smin_fetch | .atomic_umin_fetch | .atomic_smax_fetch | .atomic_umax_fetch => true
  | _ => false

/-- Modelled from the spec: a "runtime atomic routine" reached through the
dispatch table "keyed by access size and byte order" (atomic_template.h is not
among the sources).  The call record carries the family, the table key, the
number of temporaries of a value and of the address, then the result, the
address and the operands.  The routine reads the prior value at the access size
and byte order of its key, stores the family's result and returns the prior
(or, for op-then-fetch, the new) value zero-extended. -/
def exec_atomic (h : Helper) (op : TCGOp) (m : Machine) : Machine :=
  let a (i : Nat) : Nat := op.args.getD i 0
  let key := a 1
  let w := a 2
  let wa := a 3
  let size := key &&& MO_SIZE
  let bits := 8 * 2 ^ size
  let val (i : Nat) : Nat :=
    if w = 2 then pair64 (m.regs (a i)) (m.regs (a (i + 1))) else m.regs (a i) % 2 ^ 64
  let ea :=
    if wa = 2 then pair64 (m.regs (a (4 + w))) (m.regs (a (5 + w)))
    else m.regs (a (4 + w)) % 2 ^ 64
  let v := val (4 + w + wa) % 2 ^ bits
  let v2 := val (4 + w + wa + w) % 2 ^ bits
  let raw := ldn m.mem ea (2 ^ size)
  let old := if key &&& MO_BSWAP ≠ 0 then bswap_size size raw else raw
  let new := atomic_new h bits old v v2
  let m1 : Machine :=
    { m with mem := (stn m.mem ea (2 ^ size)
        (if key &&& MO_BSWAP ≠ 0 then bswap_size size new else new)) }
  let r := if atomic_returns_new h then new else old
  if w = 2 then m1.setPair (a 4) (a 5) r else m1.set (a 4) r

/-- Modelled from the spec: the runtime helper routines (tcg-runtime.c) are
"guaranteed-present" collaborators that are not among the sources.  A call op
carries the helper, then the result temporaries, then the operands; a 64-bit
value takes one argument on a 64-bit host and a low/high pair on a 32-bit
host.  The count helpers return "the architecturally-defined width value" given
as second operand on a zero input. -/
def exec_helper (op : TCGOp) (m : Machine) : Machine :=
  let a (i : Nat) : Nat := op.args.getD i 0
  let r32 (i : Nat) : Nat := m.regs (a i) % 2 ^ 32
  let r64 (i : Nat) : Nat := m.regs (a i) % 2 ^ 64
  match Helper.ofNat (a 0) with
  | .clz_i32 => m.set (a 1) (if r32 2 = 0 then r32 3 else clz 32 (r32 2))
  | .clz_i64 =>
      if op.args.length = 4 then
        m.set (a 1) (if r64 2 = 0 then r64 3 else clz 64 (r64 2))
      else
        m.setPair (a 1) (a 2)
          (if pair64 (m.regs (a 3)) (m.regs (a 4)) = 0 then pair64 (m.regs (a 5)) (m.regs (a 6))
           else clz 64 (pair64 (m.regs (a 3)) (m.regs (a 4))))
  | .shl_i64 =>
      m.setPair (a 1) (a 2)
        ((pair64 (m.regs (a 3)) (m.regs (a 4)) <<< pair64 (m.regs (a 5)) (m.regs (a 6))) % 2 ^ 64)
  | .shr_i64 =>
      m.setPair (a 1) (a 2)
        (pair64 (m.regs (a 3)) (m.regs (a 4)) >>> pair64 (m.regs (a 5)) (m.regs (a 6)))
  | .sar_i64 =>
      m.setPair (a 1) (a 2)
        (sar 64 (pair64 (m.regs (a 3)) (m.regs (a 4))) (pair64 (m.regs (a 5)) (m.regs (a 6))))
  | .ctz_i32 => m.set (a 1) (if r32 2 = 0 then r32 3 else ctz 32 (r32 2))
  | .ctpop_i32 => m.set (a 1) (ctpop 32 (r32 2))
  | .ctz_i64 =>
      if op.args.length = 4 then
        m.set (a 1) (if r64 2 = 0 then r64 3 else ctz 64 (r64 2))
      else
        m.setPair (a 1) (a 2)
          (if pair64 (m.regs (a 3)) (m.regs (a 4)) = 0 then pair64 (m.regs (a 5)) (m.regs (a 6))
           else ctz 64 (pair64 (m.regs (a 3)) (m.regs (a 4))))
  | .ctpop_i64 =>
      if op.args.length = 3 then m.set (a 1) (ctpop 64 (r64 2))
      else m.setPair (a 1) (a 2) (ctpop 64 (pair64 (m.regs (a 3)) (m.regs (a 4))))
  | .atomic_cmpxchg
  | .atomic_fetch_add | .atomic_fetch_and | .atomic_fetch_or | .atomic_fetch_xor
  | .atomic_fetch_smin | .atomic_fetch_umin | .atomic_fetch_smax | .atomic_fetch_umax
  | .atomic_add_fetch | .atomic_and_fetch | .atomic_or_fetch | .atomic_xor_fetch
  | .atomic_smin_fetch | .atomic_umin_fetch | .atomic_smax_fetch | .atomic_umax_fetch
  | .atomic_xchg => exec_atomic (Helper.ofNat (a 0)) op m
  | .muluh_i64 =>
      if op.args.length = 4 then m.set (a 1) ((r64 2 * r64 3) / 2 ^ 64)
      else
        m.setPair (a 1) (a 2)
          ((pair64 (m.regs (a 3)) (m.regs (a 4)) * pair64 (m.regs (a 5)) (m.regs (a 6))) / 2 ^ 64)
  | .mulsh_i64 =>
      if op.args.length = 4 then m.set (a 1) (muls 64 (r64 2) (r64 3) / 2 ^ 64)
      else
        m.setPair (a 1) (a 2)
          (muls 64 (pair64 (m.regs (a 3)) (m.regs (a 4)))
            (pair64 (m.regs (a 5)) (m.regs (a 6))) / 2 ^ 64)
  | _ => m

/-- Modelled from the spec: the meaning of the trailing-zero and population
count ops; a trailing-zero count returns its second operand on a zero input. -/
def exec_count (op : TCGOp) (m : Machine) : Machine :=
  let a (i : Nat) : Nat := op.args.getD i 0
  let r32 (i : Nat) : Nat := m.regs (a i) % 2 ^ 32
  let r64 (i : Nat) : Nat := m.regs (a i) % 2 ^ 64
  match op.opc with
  | .ctz_i32 => m.set (a 0) (if r32 1 = 0 then r32 2 else ctz 32 (r32 1))
  | .ctpop_i32 => m.set (a 0) (ctpop 32 (r32 1))
  | .ctz_i64 => m.set (a 0) (if r64 1 = 0 then r64 2 else ctz 64 (r64 1))
  | .ctpop_i64 => m.set (a 0) (ctpop 64 (r64 1))
  | _ => m

/-- Modelled from the spec: the meaning of the wide multiply and double-word
add/subtract ops: "wide multiply (2×width→2×width result), paired
add/sub-with-carry"; the `uh`/`sh` ops give the high half of the unsigned and
of the signed product. -/
def exec_wide (op : TCGOp) (m : Machine) : Machine :=
  let a (i : Nat) : Nat := op.args.getD i 0
  let r32 (i : Nat) : Nat := m.regs (a i) % 2 ^ 32
  let r64 (i : Nat) : Nat := m.regs (a i) % 2 ^ 64
  match op.opc with
  | .muluh_i32 => m.set (a 0) ((r32 1 * r32 2) / 2 ^ 32)
  | .mulsh_i32 => m.set (a 0) (muls 32 (r32 1) (r32 2) / 2 ^ 32)
  | .mulu2_i32 =>
      (m.set (a 0) ((r32 2 * r32 3) % 2 ^ 32)).set (a 1) ((r32 2 * r32 3) / 2 ^ 32)
  | .muls2_i32 =>
      (m.set (a 0) (muls 32 (r32 2) (r32 3) % 2 ^ 32)).set (a 1)
        (muls 32 (r32 2) (r32 3) / 2 ^ 32)
  | .muluh_i64 => m.set (a 0) ((r64 1 * r64 2) / 2 ^ 64)
  | .mulsh_i64 => m.set (a 0) (muls 64 (r64 1) (r64 2) / 2 ^ 64)
  | .mulu2_i64 =>
      (m.set (a 0) ((r64 2 * r64 3) % 2 ^ 64)).set (a 1) ((r64 2 * r64 3) / 2 ^ 64)
  | .muls2_i64 =>
      (m.set (a 0) (muls 64 (r64 2) (r64 3) % 2 ^ 64)).set (a 1)
        (muls 64 (r64 2) (r64 3) / 2 ^ 64)
  | .add2_i64 =>
      let sum := (r64 2 + r64 3 * 2 ^ 64) + (r64 4 + r64 5 * 2 ^ 64)
      (m.set (a 0) (sum % 2 ^ 64)).set (a 1) ((sum / 2 ^ 64) % 2 ^ 64)
  | .sub2_i64 =>
      let dif := (r64 2 + r64 3 * 2 ^ 64) + 2 ^ 128 - (r64 4 + r64 5 * 2 ^ 64)
      (m.set (a 0) (dif % 2 ^ 64)).set (a 1) ((dif / 2 ^ 64) % 2 ^ 64)
  | _ => m

/-- Modelled from the spec: the meaning of a guest memory op.  The record carries
the value temporary (a low/high pair for a 64-bit value on a 32-bit host), the
address temporary (a low/high pair for a 64-bit guest on a 32-bit host) and the
packed `MemOp` and MMU index; all MMU indexes address the same memory. -/
def exec_ldst (op : TCGOp) (m : Machine) : Machine :=
  let a (i : Nat) : Nat := op.args.getD i 0
  let r32 (i : Nat) : Nat := m.regs (a i) % 2 ^ 32
  let r64 (i : Nat) : Nat := m.regs (a i) % 2 ^ 64
  match op.opc with
  | .qemu_ld_i32 =>
      if op.args.length = 3 then
        m.set (a 0) (mem_ld 32 m.mem (r64 1) (a 2 >>> 4))
      else
        m.set (a 0) (mem_ld 32 m.mem (pair64 (m.regs (a 1)) (m.regs (a 2))) (a 3 >>> 4))
  | .qemu_st_i32 =>
      if op.args.length = 3 then
        { m with mem := (mem_st m.mem (r64 1) (a 2 >>> 4) (r32 0)) }
      else
        { m with mem := (mem_st m.mem (pair64 (m.regs (a 1)) (m.regs (a 2))) (a 3 >>> 4) (r32 0)) }
  | .qemu_ld_i64 =>
      if op.args.length = 3 then
        m.set (a 0) (mem_ld 64 m.mem (r64 1) (a 2 >>> 4))
      else if op.args.length = 4 then
        m.setPair (a 0) (a 1) (mem_ld 64 m.mem (r64 2) (a 3 >>> 4))
      else
        m.setPair (a 0) (a 1)
          (mem_ld 64 m.mem (pair64 (m.regs (a 2)) (m.regs (a 3))) (a 4 >>> 4))
  | .qemu_st_i64 =>
      if op.args.length = 3 then
        { m with mem := (mem_st m.mem (r64 1) (a 2 >>> 4) (r64 0)) }
      else if op.args.length = 4 then
        { m with mem := (mem_st m.mem (r64 2) (a 3 >>> 4)
            (pair64 (m.regs (a 0)) (m.regs (a 1)))) }
      else
        { m with mem := (mem_st m.mem (pair64 (m.regs (a 2)) (m.regs (a 3))) (a 4 >>> 4)
            (pair64 (m.regs (a 0)) (m.regs (a 1)))) }
  | _ => m

/-- Modelled from the spec: the meaning of one op record.  The back end that
consumes the op stream is not among the sources; each op is given the meaning
the lowering routines rely on ("a single native op if the host back end
advertises support").  A 32-bit operand is read as the low 32 bits of the
temporary and a 32-bit result is a 32-bit pattern; a shift by an amount outside
`[0, width)` is unspecified by the back end and is given the mathematical
shift truncated to the width.  An op that has no case below (a branch, a
division, a host load or store) is left without effect: no statement reads a
value computed by such an op. -/
def exec_op (op : TCGOp) (m : Machine) : Machine :=
  let a (i : Nat) : Nat := op.args.getD i 0
  let r32 (i : Nat) : Nat := m.regs (a i) % 2 ^ 32
  let r64 (i : Nat) : Nat := m.regs (a i) % 2 ^ 64
  match op.opc with
  | .mov_i32 => m.set (a 0) (r32 1)
  | .movi_i32 => m.set (a 0) (a 1 % 2 ^ 32)
  | .add_i32 => m.set (a 0) ((r32 1 + r32 2) % 2 ^ 32)
  | .sub_i32 => m.set (a 0) ((r32 1 + 2 ^ 32 - r32 2) % 2 ^ 32)
  | .mul_i32 => m.set (a 0) ((r32 1 * r32 2) % 2 ^ 32)
  | .and_i32 => m.set (a 0) (r32 1 &&& r32 2)
  | .or_i32 => m.set (a 0) (r32 1 ||| r32 2)
  | .xor_i32 => m.set (a 0) (r32 1 ^^^ r32 2)
  | .shl_i32 => m.set (a 0) ((r32 1 <<< r32 2) % 2 ^ 32)
  | .shr_i32 => m.set (a 0) (r32 1 >>> r32 2)
  | .sar_i32 => m.set (a 0) (sar 32 (r32 1) (r32 2))
  | .rotl_i32 => m.set (a 0) (rotl 32 (r32 1) (r32 2))
  | .rotr_i32 => m.set (a 0) (rotr 32 (r32 1) (r32 2))
  | .neg_i32 => m.set (a 0) ((2 ^ 32 - r32 1) % 2 ^ 32)
  | .not_i32 => m.set (a 0) (bnot 32 (r32 1))
  | .andc_i32 => m.set (a 0) (r32 1 &&& bnot 32 (r32 2))
  | .ext8s_i32 => m.set (a 0) (sext 32 8 (r32 1))
  | .ext16s_i32 => m.set (a 0) (sext 32 16 (r32 1))
  | .ext8u_i32 => m.set (a 0) (r32 1 % 2 ^ 8)
  | .ext16u_i32 => m.set (a 0) (r32 1 % 2 ^ 16)
  | .bswap16_i32 => m.set (a 0) (bswap16 (r32 1))
  | .bswap32_i32 => m.set (a 0) (bswap32 (r32 1))
  | .deposit_i32 => m.set (a 0) (deposit 32 (r32 1) (r32 2) (a 3) (a 4))
  | .extract_i32 => m.set (a 0) ((r32 1 >>> a 2) % 2 ^ a 3)
  | .sextract_i32 => m.set (a 0) (sext 32 (a 3) (r32 1 >>> a 2))
  | .extract2_i32 => m.set (a 0) (extract2 32 (r32 1) (r32 2) (a 3))
  | .setcond_i32 =>
      m.set (a 0) (if (TCGCond.ofArg (a 3)).eval 32 (r32 1) (r32 2) then 1 else 0)
  | .movcond_i32 =>
      m.set (a 0) (if (TCGCond.ofArg (a 5)).eval 32 (r32 1) (r32 2) then r32 3 else r32 4)
  | .setcond2_i32 =>
      m.set (a 0) (if (TCGCond.ofArg (a 5)).eval 64 (r32 1 + r32 2 * 2 ^ 32)
                        (r32 3 + r32 4 * 2 ^ 32) then 1 else 0)
  | .clz_i32 => m.set (a 0) (if r32 1 = 0 then r32 2 else clz 32 (r32 1))
  | .add2_i32 =>
      let sum := (r32 2 + r32 3 * 2 ^ 32) + (r32 4 + r32 5 * 2 ^ 32)
      (m.set (a 0) (sum % 2 ^ 32)).set (a 1) ((sum / 2 ^ 32) % 2 ^ 32)
  | .sub2_i32 =>
      let dif := (r32 2 + r32 3 * 2 ^ 32) + 2 ^ 64 - (r32 4 + r32 5 * 2 ^ 32)
      (m.set (a 0) (dif % 2 ^ 32)).set (a 1) ((dif / 2 ^ 32) % 2 ^ 32)
  | .mov_i64 => m.set (a 0) (r64 1)
  | .movi_i64 => m.set (a 0) (a 1 % 2 ^ 64)
  | .add_i64 => m.set (a 0) ((r64 1 + r64 2) % 2 ^ 64)
  | .sub_i64 => m.set (a 0) ((r64 1 + 2 ^ 64 - r64 2) % 2 ^ 64)
  | .mul_i64 => m.set (a 0) ((r64 1 * r64 2) % 2 ^ 64)
  | .and_i64 => m.set (a 0) (r64 1 &&& r64 2)
  | .or_i64 => m.set (a 0) (r64 1 ||| r64 2)
  | .xor_i64 => m.set (a 0) (r64 1 ^^^ r64 2)
  | .shl_i64 => m.set (a 0) ((r64 1 <<< r64 2) % 2 ^ 64)
  | .shr_i64 => m.set (a 0) (r64 1 >>> r64 2)
  | .sar_i64 => m.set (a 0) (sar 64 (r64 1) (r64 2))
  | .rotl_i64 => m.set (a 0) (rotl 64 (r64 1) (r64 2))
  | .rotr_i64 => m.set (a 0) (rotr 64 (r64 1) (r64 2))
  | .neg_i64 => m.set (a 0) ((2 ^ 64 - r64 1) % 2 ^ 64)
  | .not_i64 => m.set (a 0) (bnot 64 (r64 1))
  | .andc_i64 => m.set (a 0) (r64 1 &&& bnot 64 (r64 2))
  | .ext8s_i64 => m.set (a 0) (sext 64 8 (r64 1))
  | .ext16s_i64 => m.set (a 0) (sext 64 16 (r64 1))
  | .ext32s_i64 => m.set (a 0) (sext 64 32 (r64 1))
  | .ext8u_i64 => m.set (a 0) (r64 1 % 2 ^ 8)
  | .ext16u_i64 => m.set (a 0) (r64 1 % 2 ^ 16)
  | .ext32u_i64 => m.set (a 0) (r64 1 % 2 ^ 32)
  | .bswap16_i64 => m.set (a 0) (bswap16 (r64 1))
  | .bswap32_i64 => m.set (a 0) (bswap32 (r64 1))
  | .bswap64_i64 => m.set (a 0) (bswap64 (r64 1))
  | .deposit_i64 => m.set (a 0) (deposit 64 (r64 1) (r64 2) (a 3) (a 4))
  | .extract_i64 => m.set (a 0) ((r64 1 >>> a 2) % 2 ^ a 3)
  | .sextract_i64 => m.set (a 0) (sext 64 (a 3) (r64 1 >>> a 2))
  | .extract2_i64 => m.set (a 0) (extract2 64 (r64 1) (r64 2) (a 3))
  | .setcond_i64 =>
      m.set (a 0) (if (TCGCond.ofArg (a 3)).eval 64 (r64 1) (r64 2) then 1 else 0)
  | .movcond_i64 =>
      m.set (a 0) (if (TCGCond.ofArg (a 5)).eval 64 (r64 1) (r64 2) then r64 3 else r64 4)
  | .clz_i64 => m.set (a 0) (if r64 1 = 0 then r64 2 else clz 64 (r64 1))
  | .extu_i32_i64 => m.set (a 0) (r32 1)
  | .ext_i32_i64 => m.set (a 0) (sext 64 32 (r32 1))
  | .extrl_i64_i32 => m.set (a 0) (r64 1 % 2 ^ 32)
  | .extrh_i64_i32 => m.set (a 0) (r64 1 >>> 32)
  | .call => exec_helper op m
  | .ctz_i32 => exec_count op m
  | .ctpop_i32 => exec_count op m
  | .ctz_i64 => exec_count op m
  | .ctpop_i64 => exec_count op m
  | .qemu_ld_i32 => exec_ldst op m
  | .qemu_st_i32 => exec_ldst op m
  | .qemu_ld_i64 => exec_ldst op m
  | .qemu_st_i64 => exec_ldst op m
  | .muluh_i32 => exec_wide op m
  | .mulsh_i32 => exec_wide op m
  | .mulu2_i32 => exec_wide op m
  | .muls2_i32 => exec_wide op m
  | .muluh_i64 => exec_wide op m
  | .mulsh_i64 => exec_wide op m
  | .mulu2_i64 => exec_wide op m
  | .muls2_i64 => exec_wide op m
  | .add2_i64 => exec_wide op m
  | .sub2_i64 => exec_wide op m
  | _ => m

/-- Run a sequence of ops in program order. -/
def run (ops : List TCGOp) (m : Machine) : Machine :=
  ops.foldl (fun m op => exec_op op m) m

/-! ## The emission monad and the op stream -/

/-- An emitter: from an emission context it yields its result (`none` when it
aborted on a failed assertion or `tcg_abort`) and the emission context at that
point. -/
def Gen (α : Type) : Type := TCGContext → Option α × TCGContext

/-- Continue with `f` after an outcome, unless that outcome is an abort. -/
def Gen.andThen {α β : Type} (p : Option α × TCGContext) (f : α → Gen β) :
    Option β × TCGContext :=
  match p with
  | (some a, s) => f a s
  | (none, s) => (none, s)

/-- Sequencing of emitters: run `x`, then `f` on its result, unless `x` aborts. -/
@[noinline] def Gen.bind {α β : Type} (x : Gen α) (f : α → Gen β) : Gen β :=
  fun s => Gen.andThen (x s) f

instance : Monad Gen where
  pure a := fun s => (some a, s)
  bind := Gen.bind

/-- `tcg_abort`: emission stops in the current context. -/
def tcg_abort {α : Type} : Gen α := fun s => (none, s)

/-- The context `s` after appending the ops `δ` and handing out `k` temporaries. -/
def TCGContext.extend (s : TCGContext) (δ : List TCGOp) (k : Nat) : TCGContext :=
  { s with ops := s.ops ++ δ, nb_temps := s.nb_temps + k }

/-- `tcg_debug_assert`: abort emission when the condition fails. -/
def tcg_debug_assert (c : Bool) : Gen Unit :=
  fun s => (if c then some () else none, s)

/-- Modelled from the spec: `tcg_emit_op` (tcg.c) together with the argument
stores that follow it: "`emit(opcode, args...)` appends a record". -/
def tcg_emit_op (opc : TCGOpcode) (args : List TCGArg) : Gen Unit :=
  fun s => (some (), { s with ops := s.ops ++ [⟨opc, args⟩] })

def tcg_gen_op1 (opc : TCGOpcode) (a1 : TCGArg) : Gen Unit :=
  tcg_emit_op opc [a1]

def tcg_gen_op2 (opc : TCGOpcode) (a1 a2 : TCGArg) : Gen Unit :=
  tcg_emit_op opc [a1, a2]

def tcg_gen_op3 (opc : TCGOpcode) (a1 a2 a3 : TCGArg) : Gen Unit :=
  tcg_emit_op opc [a1, a2, a3]

def tcg_gen_op4 (opc : TCGOpcode) (a1 a2 a3 a4 : TCGArg) : Gen Unit :=
  tcg_emit_op opc [a1, a2, a3, a4]

def tcg_gen_op5 (opc : TCGOpcode) (a1 a2 a3 a4 a5 : TCGArg) : Gen Unit :=
  tcg_emit_op opc [a1, a2, a3, a4, a5]

def tcg_gen_op6 (opc : TCGOpcode) (a1 a2 a3 a4 a5 a6 : TCGArg) : Gen Unit :=
  tcg_emit_op opc [a1, a2, a3, a4, a5, a6]

/-- Modelled from the spec: the temporary pool (tcg.c) is not among the
sources.  A new scratch temporary is the next unused index. -/
def tcg_temp_new_i32 : Gen TCGv_i32 :=
  fun s => (some s.nb_temps, { s with nb_temps := s.nb_temps + 1 })

/-- Modelled from the spec: releasing a scratch temporary (tcg.c) is a
lifecycle event that leaves the op stream untouched. -/
def tcg_temp_free_i32 (_t : TCGv_i32) : Gen Unit := pure ()

/-! ### 32-bit ops: the inline wrappers of `tcg-op.h` -/

/-- Modelled from the spec: `tcg_gen_mov_i32` (tcg-op.h), a move op. -/
def tcg_gen_mov_i32 (ret arg : TCGv_i32) : Gen Unit :=
  tcg_gen_op2 .mov_i32 ret arg

/-- Modelled from the spec: `tcg_gen_movi_i32` (tcg-op.h), a constant load. -/
def tcg_gen_movi_i32 (ret : TCGv_i32) (arg : Nat) : Gen Unit :=
  tcg_gen_op2 .movi_i32 ret arg

/-- Modelled from the spec: `tcg_const_i32` (tcg.c): "construct a temporary
holding the constant". -/
def tcg_const_i32 (val : Nat) : Gen TCGv_i32 := do
  let t0 ← tcg_temp_new_i32
  tcg_gen_movi_i32 t0 val
  pure t0

/-- Modelled from the spec: `tcg_gen_add_i32` (tcg-op.h). -/
def tcg_gen_add_i32 (ret arg1 arg2 : TCGv_i32) : Gen Unit :=
  tcg_gen_op3 .add_i32 ret arg1 arg2

/-- Modelled from the spec: `tcg_gen_sub_i32` (tcg-op.h). -/
def tcg_gen_sub_i32 (ret arg1 arg2 : TCGv_i32) : Gen Unit :=
  tcg_gen_op3 .sub_i32 ret arg1 arg2

/-- Modelled from the spec: `tcg_gen_and_i32` (tcg-op.h). -/
def tcg_gen_and_i32 (ret arg1 arg2 : TCGv_i32) : Gen Unit :=
  tcg_gen_op3 .and_i32 ret arg1 arg2

/-- Modelled from the spec: `tcg_gen_or_i32` (tcg-op.h). -/
def tcg_gen_or_i32 (ret arg1 arg2 : TCGv_i32) : Gen Unit :=
  tcg_gen_op3 .or_i32 ret arg1 arg2

/-- Modelled from the spec: `tcg_gen_xor_i32` (tcg-op.h). -/
def tcg_gen_xor_i32 (ret arg1 arg2 : TCGv_i32) : Gen Unit :=
  tcg_gen_op3 .xor_i32 ret arg1 arg2

/-- Modelled from the spec: `tcg_gen_shl_i32` (tcg-op.h). -/
def tcg_gen_shl_i32 (ret arg1 arg2 : TCGv_i32) : Gen Unit :=
  tcg_gen_op3 .shl_i32 ret arg1 arg2

/-- Modelled from the spec: `tcg_gen_shr_i32` (tcg-op.h). -/
def tcg_gen_shr_i32 (ret arg1 arg2 : TCGv_i32) : Gen Unit :=
  tcg_gen_op3 .shr_i32 ret arg1 arg2

/-- Modelled from the spec: `tcg_gen_sar_i32` (tcg-op.h). -/
def tcg_gen_sar_i32 (ret arg1 arg2 : TCGv_i32) : Gen Unit :=
  tcg_gen_op3 .sar_i32 ret arg1 arg2

/-! ### 32-bit ops (`tcg-op.c`) -/

def tcg_gen_addi_i32 (ret arg1 : TCGv_i32) (arg2 : Nat) : Gen Unit := do
  if arg2 = 0 then
    tcg_gen_mov_i32 ret arg1
  else
    let t0 ← tcg_const_i32 arg2
    tcg_gen_add_i32 ret arg1 t0
    tcg_temp_free_i32 t0

def tcg_gen_subfi_i32 (T : TCGTarget) (ret : TCGv_i32) (arg1 : Nat) (arg2 : TCGv_i32) :
    Gen Unit := do
  if arg1 = 0 ∧ T.TCG_TARGET_HAS_neg_i32 then
    tcg_gen_op2 .neg_i32 ret arg2
  else
    let t0 ← tcg_const_i32 arg1
    tcg_gen_sub_i32 ret t0 arg2
    tcg_temp_free_i32 t0

def tcg_gen_subi_i32 (ret arg1 : TCGv_i32) (arg2 : Nat) : Gen Unit := do
  if arg2 = 0 then
    tcg_gen_mov_i32 ret arg1
  else
    let t0 ← tcg_const_i32 arg2
    tcg_gen_sub_i32 ret arg1 t0
    tcg_temp_free_i32 t0

def tcg_gen_andi_i32 (T : TCGTarget) (ret arg1 : TCGv_i32) (arg2 : Nat) : Gen Unit := do
  if arg2 = 0 then
    tcg_gen_movi_i32 ret 0
  else if arg2 = 0xffffffff then
    tcg_gen_mov_i32 ret arg1
  else if arg2 = 0xff ∧ T.TCG_TARGET_HAS_ext8u_i32 then
    tcg_gen_op2 .ext8u_i32 ret arg1
  else if arg2 = 0xffff ∧ T.TCG_TARGET_HAS_ext16u_i32 then
    tcg_gen_op2 .ext16u_i32 ret arg1
  else
    let t0 ← tcg_const_i32 arg2
    tcg_gen_and_i32 ret arg1 t0
    tcg_temp_free_i32 t0

def tcg_gen_xori_i32 (T : TCGTarget) (ret arg1 : TCGv_i32) (arg2 : Nat) : Gen Unit := do
  if arg2 = 0 then
    tcg_gen_mov_i32 ret arg1
  else if arg2 = 0xffffffff ∧ T.TCG_TARGET_HAS_not_i32 then
    tcg_gen_op2 .not_i32 ret arg1
  else
    let t0 ← tcg_const_i32 arg2
    tcg_gen_xor_i32 ret arg1 t0
    tcg_temp_free_i32 t0

/-- Modelled from the spec: `tcg_gen_neg_i32` (tcg-op.h): the native op if
available, else `0 - arg`. -/
def tcg_gen_neg_i32 (T : TCGTarget) (ret arg : TCGv_i32) : Gen Unit :=
  if T.TCG_TARGET_HAS_neg_i32 then
    tcg_gen_op2 .neg_i32 ret arg
  else
    tcg_gen_subfi_i32 T ret 0 arg

/-- Modelled from the spec: `tcg_gen_not_i32` (tcg-op.h): the native op if
available, else xor with all-ones. -/
def tcg_gen_not_i32 (T : TCGTarget) (ret arg : TCGv_i32) : Gen Unit :=
  if T.TCG_TARGET_HAS_not_i32 then
    tcg_gen_op2 .not_i32 ret arg
  else
    tcg_gen_xori_i32 T ret arg 0xffffffff

def tcg_gen_shli_i32 (ret arg1 : TCGv_i32) (arg2 : Nat) : Gen Unit := do
  tcg_debug_assert (decide (arg2 < 32))
  if arg2 = 0 then
    tcg_gen_mov_i32 ret arg1
  else
    let t0 ← tcg_const_i32 arg2
    tcg_gen_shl_i32 ret arg1 t0
    tcg_temp_free_i32 t0

def tcg_gen_shri_i32 (ret arg1 : TCGv_i32) (arg2 : Nat) : Gen Unit := do
  tcg_debug_assert (decide (arg2 < 32))
  if arg2 = 0 then
    tcg_gen_mov_i32 ret arg1
  else
    let t0 ← tcg_const_i32 arg2
    tcg_gen_shr_i32 ret arg1 t0
    tcg_temp_free_i32 t0

def tcg_gen_sari_i32 (ret arg1 : TCGv_i32) (arg2 : Nat) : Gen Unit := do
  tcg_debug_assert (decide (arg2 < 32))
  if arg2 = 0 then
    tcg_gen_mov_i32 ret arg1
  else
    let t0 ← tcg_const_i32 arg2
    tcg_gen_sar_i32 ret arg1 t0
    tcg_temp_free_i32 t0

def tcg_gen_ext8s_i32 (T : TCGTarget) (ret arg : TCGv_i32) : Gen Unit := do
  if T.TCG_TARGET_HAS_ext8s_i32 then
    tcg_gen_op2 .ext8s_i32 ret arg
  else
    tcg_gen_shli_i32 ret arg 24
    tcg_gen_sari_i32 ret ret 24

def tcg_gen_ext16s_i32 (T : TCGTarget) (ret arg : TCGv_i32) : Gen Unit := do
  if T.TCG_TARGET_HAS_ext16s_i32 then
    tcg_gen_op2 .ext16s_i32 ret arg
  else
    tcg_gen_shli_i32 ret arg 16
    tcg_gen_sari_i32 ret ret 16

def tcg_gen_ext8u_i32 (T : TCGTarget) (ret arg : TCGv_i32) : Gen Unit :=
  if T.TCG_TARGET_HAS_ext8u_i32 then
    tcg_gen_op2 .ext8u_i32 ret arg
  else
    tcg_gen_andi_i32 T ret arg 0xff

def tcg_gen_ext16u_i32 (T : TCGTarget) (ret arg : TCGv_i32) : Gen Unit :=
  if T.TCG_TARGET_HAS_ext16u_i32 then
    tcg_gen_op2 .ext16u_i32 ret arg
  else
    tcg_gen_andi_i32 T ret arg 0xffff

/-- The routine `tcg_gen_setcond_i32` of tcg-op.c: a constant load when the condition
is constant, the comparison op otherwise. -/
def tcg_gen_setcond_i32 (cond : TCGCond) (ret arg1 arg2 : TCGv_i32) : Gen Unit :=
  if cond = .ALWAYS then
    tcg_gen_movi_i32 ret 1
  else if cond = .NEVER then
    tcg_gen_movi_i32 ret 0
  else
    tcg_gen_op4 .setcond_i32 ret arg1 arg2 cond.toArg

def tcg_gen_andc_i32 (T : TCGTarget) (ret arg1 arg2 : TCGv_i32) : Gen Unit := do
  if T.TCG_TARGET_HAS_andc_i32 then
    tcg_gen_op3 .andc_i32 ret arg1 arg2
  else
    let t0 ← tcg_temp_new_i32
    tcg_gen_not_i32 T t0 arg2
    tcg_gen_and_i32 ret arg1 t0
    tcg_temp_free_i32 t0

def tcg_gen_rotl_i32 (T : TCGTarget) (ret arg1 arg2 : TCGv_i32) : Gen Unit := do
  if T.TCG_TARGET_HAS_rot_i32 then
    tcg_gen_op3 .rotl_i32 ret arg1 arg2
  else
    let t0 ← tcg_temp_new_i32
    let t1 ← tcg_temp_new_i32
    tcg_gen_shl_i32 t0 arg1 arg2
    tcg_gen_subfi_i32 T t1 32 arg2
    tcg_gen_shr_i32 t1 arg1 t1
    tcg_gen_or_i32 ret t0 t1
    tcg_temp_free_i32 t0
    tcg_temp_free_i32 t1

def tcg_gen_rotli_i32 (T : TCGTarget) (ret arg1 : TCGv_i32) (arg2 : Nat) : Gen Unit := do
  tcg_debug_assert (decide (arg2 < 32))
  if arg2 = 0 then
    tcg_gen_mov_i32 ret arg1
  else if T.TCG_TARGET_HAS_rot_i32 then
    let t0 ← tcg_const_i32 arg2
    tcg_gen_rotl_i32 T ret arg1 t0
    tcg_temp_free_i32 t0
  else
    let t0 ← tcg_temp_new_i32
    let t1 ← tcg_temp_new_i32
    tcg_gen_shli_i32 t0 arg1 arg2
    tcg_gen_shri_i32 t1 arg1 (32 - arg2)
    tcg_gen_or_i32 ret t0 t1
    tcg_temp_free_i32 t0
    tcg_temp_free_i32 t1

def tcg_gen_rotr_i32 (T : TCGTarget) (ret arg1 arg2 : TCGv_i32) : Gen Unit := do
  if T.TCG_TARGET_HAS_rot_i32 then
    tcg_gen_op3 .rotr_i32 ret arg1 arg2
  else
    let t0 ← tcg_temp_new_i32
    let t1 ← tcg_temp_new_i32
    tcg_gen_shr_i32 t0 arg1 arg2
    tcg_gen_subfi_i32 T t1 32 arg2
    tcg_gen_shl_i32 t1 arg1 t1
    tcg_gen_or_i32 ret t0 t1
    tcg_temp_free_i32 t0
    tcg_temp_free_i32 t1

def tcg_gen_rotri_i32 (T : TCGTarget) (ret arg1 : TCGv_i32) (arg2 : Nat) : Gen Unit := do
  tcg_debug_assert (decide (arg2 < 32))
  if arg2 = 0 then
    tcg_gen_mov_i32 ret arg1
  else
    tcg_gen_rotli_i32 T ret arg1 (32 - arg2)

mutual

def tcg_gen_deposit_i32 (T : TCGTarget) (ret arg1 arg2 : TCGv_i32) (ofs len : Nat) :
    Gen Unit := do
  tcg_debug_assert (decide (ofs < 32))
  tcg_debug_assert (decide (len > 0))
  tcg_debug_assert (decide (len ≤ 32))
  tcg_debug_assert (decide (ofs + len ≤ 32))
  if len = 32 then
    tcg_gen_mov_i32 ret arg2
  else if T.TCG_TARGET_HAS_deposit_i32 ∧ T.TCG_TARGET_deposit_i32_valid ofs len then
    tcg_gen_op5 .deposit_i32 ret arg1 arg2 ofs len
  else
    let t1 ← tcg_temp_new_i32
    if h : T.TCG_TARGET_HAS_extract2_i32 = true ∧ ofs + len = 32 then
      tcg_gen_shli_i32 t1 arg1 len
      tcg_gen_extract2_i32 T ret t1 arg2 len
      tcg_temp_free_i32 t1
    else if h : T.TCG_TARGET_HAS_extract2_i32 = true ∧ ofs = 0 then
      tcg_gen_extract2_i32 T ret arg1 arg2 len
      tcg_gen_rotli_i32 T ret ret len
      tcg_temp_free_i32 t1
    else
      (if ofs + len < 32 then do
        tcg_gen_andi_i32 T t1 arg2 (2 ^ len - 1)
        tcg_gen_shli_i32 t1 t1 ofs
      else
        tcg_gen_shli_i32 t1 arg2 ofs)
      tcg_gen_andi_i32 T ret arg1 (bnot 32 ((2 ^ len - 1) <<< ofs))
      tcg_gen_or_i32 ret ret t1
      tcg_temp_free_i32 t1
termination_by 1
decreasing_by
  all_goals simp_wf
  all_goals simp [h.1]

/-- Extract 32 bits from the 64-bit input `ah:al`, starting from `ofs`. -/
def tcg_gen_extract2_i32 (T : TCGTarget) (ret al ah : TCGv_i32) (ofs : Nat) : Gen Unit := do
  tcg_debug_assert (decide (ofs ≤ 32))
  if ofs = 0 then
    tcg_gen_mov_i32 ret al
  else if ofs = 32 then
    tcg_gen_mov_i32 ret ah
  else if al = ah then
    tcg_gen_rotri_i32 T ret al ofs
  else if h : T.TCG_TARGET_HAS_extract2_i32 = true then
    tcg_gen_op4 .extract2_i32 ret al ah ofs
  else
    let t0 ← tcg_temp_new_i32
    tcg_gen_shri_i32 t0 al ofs
    tcg_gen_deposit_i32 T ret t0 ah (32 - ofs) ofs
    tcg_temp_free_i32 t0
termination_by (if T.TCG_TARGET_HAS_extract2_i32 = true then 0 else 2)
decreasing_by
  all_goals simp_wf
  all_goals simp [h]

end

def tcg_gen_extract_i32 (T : TCGTarget) (ret arg : TCGv_i32) (ofs len : Nat) : Gen Unit := do
  tcg_debug_assert (decide (ofs < 32))
  tcg_debug_assert (decide (len > 0))
  tcg_debug_assert (decide (len ≤ 32))
  tcg_debug_assert (decide (ofs + len ≤ 32))
  if ofs + len = 32 then
    tcg_gen_shri_i32 ret arg (32 - len)
  else if ofs = 0 then
    tcg_gen_andi_i32 T ret arg (2 ^ len - 1)
  else if T.TCG_TARGET_HAS_extract_i32 ∧ T.TCG_TARGET_extract_i32_valid ofs len then
    tcg_gen_op4 .extract_i32 ret arg ofs len
  else if ofs + len = 16 ∧ T.TCG_TARGET_HAS_ext16u_i32 then
    tcg_gen_ext16u_i32 T ret arg
    tcg_gen_shri_i32 ret ret ofs
  else if ofs + len = 8 ∧ T.TCG_TARGET_HAS_ext8u_i32 then
    tcg_gen_ext8u_i32 T ret arg
    tcg_gen_shri_i32 ret ret ofs
  else if (1 ≤ len ∧ len ≤ 8) ∨ len = 16 then
    tcg_gen_shri_i32 ret arg ofs
    tcg_gen_andi_i32 T ret ret (2 ^ len - 1)
  else
    tcg_gen_shli_i32 ret arg (32 - len - ofs)
    tcg_gen_shri_i32 ret ret (32 - len)

def tcg_gen_sextract_i32 (T : TCGTarget) (ret arg : TCGv_i32) (ofs len : Nat) : Gen Unit := do
  tcg_debug_assert (decide (ofs < 32))
  tcg_debug_assert (decide (len > 0))
  tcg_debug_assert (decide (len ≤ 32))
  tcg_debug_assert (decide (ofs + len ≤ 32))
  if ofs + len = 32 then
    tcg_gen_sari_i32 ret arg (32 - len)
  else if ofs = 0 ∧ len = 16 then
    tcg_gen_ext16s_i32 T ret arg
  else if ofs = 0 ∧ len = 8 then
    tcg_gen_ext8s_i32 T ret arg
  else if T.TCG_TARGET_HAS_sextract_i32 ∧ T.TCG_TARGET_extract_i32_valid ofs len then
    tcg_gen_op4 .sextract_i32 ret arg ofs len
  else if ofs + len = 16 ∧ T.TCG_TARGET_HAS_ext16s_i32 then
    tcg_gen_ext16s_i32 T ret arg
    tcg_gen_sari_i32 ret ret ofs
  else if ofs + len = 8 ∧ T.TCG_TARGET_HAS_ext8s_i32 then
    tcg_gen_ext8s_i32 T ret arg
    tcg_gen_sari_i32 ret ret ofs
  else if len = 16 ∧ T.TCG_TARGET_HAS_ext16s_i32 then
    tcg_gen_shri_i32 ret arg ofs
    tcg_gen_ext16s_i32 T ret ret
  else if len = 8 ∧ T.TCG_TARGET_HAS_ext8s_i32 then
    tcg_gen_shri_i32 ret arg ofs
    tcg_gen_ext8s_i32 T ret ret
  else
    tcg_gen_shli_i32 ret arg (32 - len - ofs)
    tcg_gen_sari_i32 ret ret (32 - len)

def tcg_gen_movcond_i32 (T : TCGTarget) (cond : TCGCond) (ret c1 c2 v1 v2 : TCGv_i32) :
    Gen Unit := do
  if cond = .ALWAYS then
    tcg_gen_mov_i32 ret v1
  else if cond = .NEVER then
    tcg_gen_mov_i32 ret v2
  else if T.TCG_TARGET_HAS_movcond_i32 then
    tcg_gen_op6 .movcond_i32 ret c1 c2 v1 v2 cond.toArg
  else
    let t0 ← tcg_temp_new_i32
    let t1 ← tcg_temp_new_i32
    tcg_gen_setcond_i32 cond t0 c1 c2
    tcg_gen_neg_i32 T t0 t0
    tcg_gen_and_i32 t1 v1 t0
    tcg_gen_andc_i32 T ret v2 t0
    tcg_gen_or_i32 ret ret t1
    tcg_temp_free_i32 t0
    tcg_temp_free_i32 t1

/-- Note: the two high bytes of the input are assumed to be zero. -/
def tcg_gen_bswap16_i32 (T : TCGTarget) (ret arg : TCGv_i32) : Gen Unit := do
  if T.TCG_TARGET_HAS_bswap16_i32 then
    tcg_gen_op2 .bswap16_i32 ret arg
  else
    let t0 ← tcg_temp_new_i32
    tcg_gen_ext8u_i32 T t0 arg
    tcg_gen_shli_i32 t0 t0 8
    tcg_gen_shri_i32 ret arg 8
    tcg_gen_or_i32 ret ret t0
    tcg_temp_free_i32 t0

def tcg_gen_bswap32_i32 (T : TCGTarget) (ret arg : TCGv_i32) : Gen Unit := do
  if T.TCG_TARGET_HAS_bswap32_i32 then
    tcg_gen_op2 .bswap32_i32 ret arg
  else
    let t0 ← tcg_temp_new_i32
    let t1 ← tcg_temp_new_i32
    let t2 ← tcg_const_i32 0x00ff00ff
    tcg_gen_shri_i32 t0 arg 8
    tcg_gen_and_i32 t1 arg t2
    tcg_gen_and_i32 t0 t0 t2
    tcg_gen_shli_i32 t1 t1 8
    tcg_gen_or_i32 ret t0 t1
    tcg_gen_shri_i32 t0 ret 16
    tcg_gen_shli_i32 t1 ret 16
    tcg_gen_or_i32 ret t0 t1
    tcg_temp_free_i32 t0
    tcg_temp_free_i32 t1
    tcg_temp_free_i32 t2

/-! ### Helper calls and 64-bit temporaries -/

/-- Modelled from the spec: `tcg_gen_callN` (tcg.c), the call op behind every
`gen_helper_*` wrapper: "a call to a guaranteed-present runtime helper". -/
def tcg_gen_callN (h : Helper) (args : List TCGArg) : Gen Unit :=
  tcg_emit_op .call (h.toCtorIdx :: args)

/-- Modelled from the spec: `gen_helper_clz_i32` (generated from helper.h). -/
def gen_helper_clz_i32 (ret arg1 arg2 : TCGv_i32) : Gen Unit :=
  tcg_gen_callN .clz_i32 [ret, arg1, arg2]

/-- Modelled from the spec: a helper taking and returning 64-bit values
(generated from helper.h); on a 32-bit host each value is passed as its
low/high pair. -/
def gen_helper_i64 (T : TCGTarget) (h : Helper) (ret arg1 arg2 : TCGv_i64) : Gen Unit :=
  if T.reg64 then
    tcg_gen_callN h [ret, arg1, arg2]
  else
    tcg_gen_callN h [TCGV_LOW ret, TCGV_HIGH ret, TCGV_LOW arg1, TCGV_HIGH arg1,
      TCGV_LOW arg2, TCGV_HIGH arg2]

/-- Number of temporaries taken by a 64-bit value: one on a 64-bit host, a
low/high pair on a 32-bit host. -/
def TCGTarget.w64 (T : TCGTarget) : Nat := if T.reg64 then 1 else 2

/-- The value of the 64-bit temporary `t`. -/
def Machine.get64 (T : TCGTarget) (m : Machine) (t : TCGv_i64) : Nat :=
  if T.reg64 then m.regs t % 2 ^ 64 else pair64 (m.regs (TCGV_LOW t)) (m.regs (TCGV_HIGH t))

/-- Write the 64-bit value `v` to the 64-bit temporary `t`. -/
def Machine.set64 (T : TCGTarget) (m : Machine) (t : TCGv_i64) (v : Nat) : Machine :=
  if T.reg64 then m.set t (v % 2 ^ 64) else m.setPair (TCGV_LOW t) (TCGV_HIGH t) v

/-- Modelled from the spec: a 64-bit scratch temporary (tcg.c); on a 32-bit
host it takes two consecutive 32-bit temporaries. -/
def tcg_temp_new_i64 (T : TCGTarget) : Gen TCGv_i64 :=
  fun s => (some s.nb_temps, { s with nb_temps := s.nb_temps + T.w64 })

/-- Modelled from the spec: releasing a 64-bit scratch temporary (tcg.c). -/
def tcg_temp_free_i64 (_t : TCGv_i64) : Gen Unit := pure ()

/-! ### 64-bit ops -/

/-- On a 64-bit host the inline wrapper of tcg-op.h (one move op, modelled from
the spec); on a 32-bit host the function of tcg-op.c. -/
def tcg_gen_mov_i64 (T : TCGTarget) (ret arg : TCGv_i64) : Gen Unit := do
  if T.reg64 then
    tcg_gen_op2 .mov_i64 ret arg
  else
    tcg_gen_mov_i32 (TCGV_LOW ret) (TCGV_LOW arg)
    tcg_gen_mov_i32 (TCGV_HIGH ret) (TCGV_HIGH arg)

/-- On a 64-bit host the inline wrapper of tcg-op.h (modelled from the spec);
on a 32-bit host the function of tcg-op.c. -/
def tcg_gen_movi_i64 (T : TCGTarget) (ret : TCGv_i64) (arg : Nat) : Gen Unit := do
  if T.reg64 then
    tcg_gen_op2 .movi_i64 ret arg
  else
    tcg_gen_movi_i32 (TCGV_LOW ret) arg
    tcg_gen_movi_i32 (TCGV_HIGH ret) (arg >>> 32)

/-- Modelled from the spec: `tcg_const_i64` (tcg.c). -/
def tcg_const_i64 (T : TCGTarget) (val : Nat) : Gen TCGv_i64 := do
  let t0 ← tcg_temp_new_i64 T
  tcg_gen_movi_i64 T t0 val
  pure t0

def tcg_gen_and_i64 (T : TCGTarget) (ret arg1 arg2 : TCGv_i64) : Gen Unit := do
  if T.reg64 then
    tcg_gen_op3 .and_i64 ret arg1 arg2
  else
    tcg_gen_and_i32 (TCGV_LOW ret) (TCGV_LOW arg1) (TCGV_LOW arg2)
    tcg_gen_and_i32 (TCGV_HIGH ret) (TCGV_HIGH arg1) (TCGV_HIGH arg2)

def tcg_gen_or_i64 (T : TCGTarget) (ret arg1 arg2 : TCGv_i64) : Gen Unit := do
  if T.reg64 then
    tcg_gen_op3 .or_i64 ret arg1 arg2
  else
    tcg_gen_or_i32 (TCGV_LOW ret) (TCGV_LOW arg1) (TCGV_LOW arg2)
    tcg_gen_or_i32 (TCGV_HIGH ret) (TCGV_HIGH arg1) (TCGV_HIGH arg2)

def tcg_gen_xor_i64 (T : TCGTarget) (ret arg1 arg2 : TCGv_i64) : Gen Unit := do
  if T.reg64 then
    tcg_gen_op3 .xor_i64 ret arg1 arg2
  else
    tcg_gen_xor_i32 (TCGV_LOW ret) (TCGV_LOW arg1) (TCGV_LOW arg2)
    tcg_gen_xor_i32 (TCGV_HIGH ret) (TCGV_HIGH arg1) (TCGV_HIGH arg2)

/-- Modelled from the spec: `tcg_gen_add_i64` (tcg-op.h): the native op on a
64-bit host; on a 32-bit host the paired add with carry, which tcg.h makes
always available there. -/
def tcg_gen_add_i64 (T : TCGTarget) (ret arg1 arg2 : TCGv_i64) : Gen Unit :=
  if T.reg64 then
    tcg_gen_op3 .add_i64 ret arg1 arg2
  else
    tcg_gen_op6 .add2_i32 (TCGV_LOW ret) (TCGV_HIGH ret) (TCGV_LOW arg1) (TCGV_HIGH arg1)
      (TCGV_LOW arg2) (TCGV_HIGH arg2)

/-- Modelled from the spec: `tcg_gen_sub_i64` (tcg-op.h): the native op on a
64-bit host; on a 32-bit host the paired subtract with borrow. -/
def tcg_gen_sub_i64 (T : TCGTarget) (ret arg1 arg2 : TCGv_i64) : Gen Unit :=
  if T.reg64 then
    tcg_gen_op3 .sub_i64 ret arg1 arg2
  else
    tcg_gen_op6 .sub2_i32 (TCGV_LOW ret) (TCGV_HIGH ret) (TCGV_LOW arg1) (TCGV_HIGH arg1)
      (TCGV_LOW arg2) (TCGV_HIGH arg2)

def tcg_gen_shl_i64 (T : TCGTarget) (ret arg1 arg2 : TCGv_i64) : Gen Unit :=
  if T.reg64 then
    tcg_gen_op3 .shl_i64 ret arg1 arg2
  else
    gen_helper_i64 T .shl_i64 ret arg1 arg2

def tcg_gen_shr_i64 (T : TCGTarget) (ret arg1 arg2 : TCGv_i64) : Gen Unit :=
  if T.reg64 then
    tcg_gen_op3 .shr_i64 ret arg1 arg2
  else
    gen_helper_i64 T .shr_i64 ret arg1 arg2

def tcg_gen_sar_i64 (T : TCGTarget) (ret arg1 arg2 : TCGv_i64) : Gen Unit :=
  if T.reg64 then
    tcg_gen_op3 .sar_i64 ret arg1 arg2
  else
    gen_helper_i64 T .sar_i64 ret arg1 arg2

def tcg_gen_addi_i64 (T : TCGTarget) (ret arg1 : TCGv_i64) (arg2 : Nat) : Gen Unit := do
  if arg2 = 0 then
    tcg_gen_mov_i64 T ret arg1
  else
    let t0 ← tcg_const_i64 T arg2
    tcg_gen_add_i64 T ret arg1 t0
    tcg_temp_free_i64 t0

def tcg_gen_subfi_i64 (T : TCGTarget) (ret : TCGv_i64) (arg1 : Nat) (arg2 : TCGv_i64) :
    Gen Unit := do
  if arg1 = 0 ∧ T.TCG_TARGET_HAS_neg_i64 then
    tcg_gen_op2 .neg_i64 ret arg2
  else
    let t0 ← tcg_const_i64 T arg1
    tcg_gen_sub_i64 T ret t0 arg2
    tcg_temp_free_i64 t0

def tcg_gen_subi_i64 (T : TCGTarget) (ret arg1 : TCGv_i64) (arg2 : Nat) : Gen Unit := do
  if arg2 = 0 then
    tcg_gen_mov_i64 T ret arg1
  else
    let t0 ← tcg_const_i64 T arg2
    tcg_gen_sub_i64 T ret arg1 t0
    tcg_temp_free_i64 t0

def tcg_gen_andi_i64 (T : TCGTarget) (ret arg1 : TCGv_i64) (arg2 : Nat) : Gen Unit := do
  if ¬ T.reg64 then
    tcg_gen_andi_i32 T (TCGV_LOW ret) (TCGV_LOW arg1) (arg2 % 2 ^ 32)
    tcg_gen_andi_i32 T (TCGV_HIGH ret) (TCGV_HIGH arg1) ((arg2 >>> 32) % 2 ^ 32)
  else if arg2 = 0 then
    tcg_gen_movi_i64 T ret 0
  else if arg2 = 0xffffffffffffffff then
    tcg_gen_mov_i64 T ret arg1
  else if arg2 = 0xff ∧ T.TCG_TARGET_HAS_ext8u_i64 then
    tcg_gen_op2 .ext8u_i64 ret arg1
  else if arg2 = 0xffff ∧ T.TCG_TARGET_HAS_ext16u_i64 then
    tcg_gen_op2 .ext16u_i64 ret arg1
  else if arg2 = 0xffffffff ∧ T.TCG_TARGET_HAS_ext32u_i64 then
    tcg_gen_op2 .ext32u_i64 ret arg1
  else
    let t0 ← tcg_const_i64 T arg2
    tcg_gen_and_i64 T ret arg1 t0
    tcg_temp_free_i64 t0

def tcg_gen_xori_i64 (T : TCGTarget) (ret arg1 : TCGv_i64) (arg2 : Nat) : Gen Unit := do
  if ¬ T.reg64 then
    tcg_gen_xori_i32 T (TCGV_LOW ret) (TCGV_LOW arg1) (arg2 % 2 ^ 32)
    tcg_gen_xori_i32 T (TCGV_HIGH ret) (TCGV_HIGH arg1) ((arg2 >>> 32) % 2 ^ 32)
  else if arg2 = 0 then
    tcg_gen_mov_i64 T ret arg1
  else if arg2 = 0xffffffffffffffff ∧ T.TCG_TARGET_HAS_not_i64 then
    tcg_gen_op2 .not_i64 ret arg1
  else
    let t0 ← tcg_const_i64 T arg2
    tcg_gen_xor_i64 T ret arg1 t0
    tcg_temp_free_i64 t0

def tcg_gen_shifti_i64 (T : TCGTarget) (ret arg1 : TCGv_i64) (c : Nat) (right arith : Bool) :
    Gen Unit := do
  tcg_debug_assert (decide (c < 64))
  if c = 0 then
    tcg_gen_mov_i32 (TCGV_LOW ret) (TCGV_LOW arg1)
    tcg_gen_mov_i32 (TCGV_HIGH ret) (TCGV_HIGH arg1)
  else if c ≥ 32 then
    if right then
      if arith then
        tcg_gen_sari_i32 (TCGV_LOW ret) (TCGV_HIGH arg1) (c - 32)
        tcg_gen_sari_i32 (TCGV_HIGH ret) (TCGV_HIGH arg1) 31
      else
        tcg_gen_shri_i32 (TCGV_LOW ret) (TCGV_HIGH arg1) (c - 32)
        tcg_gen_movi_i32 (TCGV_HIGH ret) 0
    else
      tcg_gen_shli_i32 (TCGV_HIGH ret) (TCGV_LOW arg1) (c - 32)
      tcg_gen_movi_i32 (TCGV_LOW ret) 0
  else if right then
    (if T.TCG_TARGET_HAS_extract2_i32 then
      tcg_gen_extract2_i32 T (TCGV_LOW ret) (TCGV_LOW arg1) (TCGV_HIGH arg1) c
    else do
      tcg_gen_shri_i32 (TCGV_LOW ret) (TCGV_LOW arg1) c
      tcg_gen_deposit_i32 T (TCGV_LOW ret) (TCGV_LOW ret) (TCGV_HIGH arg1) (32 - c) c)
    (if arith then
      tcg_gen_sari_i32 (TCGV_HIGH ret) (TCGV_HIGH arg1) c
    else
      tcg_gen_shri_i32 (TCGV_HIGH ret) (TCGV_HIGH arg1) c)
  else
    (if T.TCG_TARGET_HAS_extract2_i32 then
      tcg_gen_extract2_i32 T (TCGV_HIGH ret) (TCGV_LOW arg1) (TCGV_HIGH arg1) (32 - c)
    else do
      let t0 ← tcg_temp_new_i32
      tcg_gen_shri_i32 t0 (TCGV_LOW arg1) (32 - c)
      tcg_gen_deposit_i32 T (TCGV_HIGH ret) t0 (TCGV_HIGH arg1) c (32 - c)
      tcg_temp_free_i32 t0)
    tcg_gen_shli_i32 (TCGV_LOW ret) (TCGV_LOW arg1) c

def tcg_gen_shli_i64 (T : TCGTarget) (ret arg1 : TCGv_i64) (arg2 : Nat) : Gen Unit := do
  tcg_debug_assert (decide (arg2 < 64))
  if ¬ T.reg64 then
    tcg_gen_shifti_i64 T ret arg1 arg2 false false
  else if arg2 = 0 then
    tcg_gen_mov_i64 T ret arg1
  else
    let t0 ← tcg_const_i64 T arg2
    tcg_gen_shl_i64 T ret arg1 t0
    tcg_temp_free_i64 t0

def tcg_gen_shri_i64 (T : TCGTarget) (ret arg1 : TCGv_i64) (arg2 : Nat) : Gen Unit := do
  tcg_debug_assert (decide (arg2 < 64))
  if ¬ T.reg64 then
    tcg_gen_shifti_i64 T ret arg1 arg2 true false
  else if arg2 = 0 then
    tcg_gen_mov_i64 T ret arg1
  else
    let t0 ← tcg_const_i64 T arg2
    tcg_gen_shr_i64 T ret arg1 t0
    tcg_temp_free_i64 t0

def tcg_gen_sari_i64 (T : TCGTarget) (ret arg1 : TCGv_i64) (arg2 : Nat) : Gen Unit := do
  tcg_debug_assert (decide (arg2 < 64))
  if ¬ T.reg64 then
    tcg_gen_shifti_i64 T ret arg1 arg2 true true
  else if arg2 = 0 then
    tcg_gen_mov_i64 T ret arg1
  else
    let t0 ← tcg_const_i64 T arg2
    tcg_gen_sar_i64 T ret arg1 t0
    tcg_temp_free_i64 t0

def tcg_gen_setcond_i64 (T : TCGTarget) (cond : TCGCond) (ret arg1 arg2 : TCGv_i64) :
    Gen Unit := do
  if cond = .ALWAYS then
    tcg_gen_movi_i64 T ret 1
  else if cond = .NEVER then
    tcg_gen_movi_i64 T ret 0
  else if ¬ T.reg64 then
    tcg_gen_op6 .setcond2_i32 (TCGV_LOW ret) (TCGV_LOW arg1) (TCGV_HIGH arg1)
      (TCGV_LOW arg2) (TCGV_HIGH arg2) cond.toArg
    tcg_gen_movi_i32 (TCGV_HIGH ret) 0
  else
    tcg_gen_op4 .setcond_i64 ret arg1 arg2 cond.toArg

def tcg_gen_ext8s_i64 (T : TCGTarget) (ret arg : TCGv_i64) : Gen Unit := do
  if ¬ T.reg64 then
    tcg_gen_ext8s_i32 T (TCGV_LOW ret) (TCGV_LOW arg)
    tcg_gen_sari_i32 (TCGV_HIGH ret) (TCGV_LOW ret) 31
  else if T.TCG_TARGET_HAS_ext8s_i64 then
    tcg_gen_op2 .ext8s_i64 ret arg
  else
    tcg_gen_shli_i64 T ret arg 56
    tcg_gen_sari_i64 T ret ret 56

def tcg_gen_ext16s_i64 (T : TCGTarget) (ret arg : TCGv_i64) : Gen Unit := do
  if ¬ T.reg64 then
    tcg_gen_ext16s_i32 T (TCGV_LOW ret) (TCGV_LOW arg)
    tcg_gen_sari_i32 (TCGV_HIGH ret) (TCGV_LOW ret) 31
  else if T.TCG_TARGET_HAS_ext16s_i64 then
    tcg_gen_op2 .ext16s_i64 ret arg
  else
    tcg_gen_shli_i64 T ret arg 48
    tcg_gen_sari_i64 T ret ret 48

def tcg_gen_ext32s_i64 (T : TCGTarget) (ret arg : TCGv_i64) : Gen Unit := do
  if ¬ T.reg64 then
    tcg_gen_mov_i32 (TCGV_LOW ret) (TCGV_LOW arg)
    tcg_gen_sari_i32 (TCGV_HIGH ret) (TCGV_LOW ret) 31
  else if T.TCG_TARGET_HAS_ext32s_i64 then
    tcg_gen_op2 .ext32s_i64 ret arg
  else
    tcg_gen_shli_i64 T ret arg 32
    tcg_gen_sari_i64 T ret ret 32

def tcg_gen_ext8u_i64 (T : TCGTarget) (ret arg : TCGv_i64) : Gen Unit := do
  if ¬ T.reg64 then
    tcg_gen_ext8u_i32 T (TCGV_LOW ret) (TCGV_LOW arg)
    tcg_gen_movi_i32 (TCGV_HIGH ret) 0
  else if T.TCG_TARGET_HAS_ext8u_i64 then
    tcg_gen_op2 .ext8u_i64 ret arg
  else
    tcg_gen_andi_i64 T ret arg 0xff

def tcg_gen_ext16u_i64 (T : TCGTarget) (ret arg : TCGv_i64) : Gen Unit := do
  if ¬ T.reg64 then
    tcg_gen_ext16u_i32 T (TCGV_LOW ret) (TCGV_LOW arg)
    tcg_gen_movi_i32 (TCGV_HIGH ret) 0
  else if T.TCG_TARGET_HAS_ext16u_i64 then
    tcg_gen_op2 .ext16u_i64 ret arg
  else
    tcg_gen_andi_i64 T ret arg 0xffff

def tcg_gen_ext32u_i64 (T : TCGTarget) (ret arg : TCGv_i64) : Gen Unit := do
  if ¬ T.reg64 then
    tcg_gen_mov_i32 (TCGV_LOW ret) (TCGV_LOW arg)
    tcg_gen_movi_i32 (TCGV_HIGH ret) 0
  else if T.TCG_TARGET_HAS_ext32u_i64 then
    tcg_gen_op2 .ext32u_i64 ret arg
  else
    tcg_gen_andi_i64 T ret arg 0xffffffff

/-- Note: the six high bytes of the input are assumed to be zero. -/
def tcg_gen_bswap16_i64 (T : TCGTarget) (ret arg : TCGv_i64) : Gen Unit := do
  if ¬ T.reg64 then
    tcg_gen_bswap16_i32 T (TCGV_LOW ret) (TCGV_LOW arg)
    tcg_gen_movi_i32 (TCGV_HIGH ret) 0
  else if T.TCG_TARGET_HAS_bswap16_i64 then
    tcg_gen_op2 .bswap16_i64 ret arg
  else
    let t0 ← tcg_temp_new_i64 T
    tcg_gen_ext8u_i64 T t0 arg
    tcg_gen_shli_i64 T t0 t0 8
    tcg_gen_shri_i64 T ret arg 8
    tcg_gen_or_i64 T ret ret t0
    tcg_temp_free_i64 t0

/-- Note: the four high bytes of the input are assumed to be zero. -/
def tcg_gen_bswap32_i64 (T : TCGTarget) (ret arg : TCGv_i64) : Gen Unit := do
  if ¬ T.reg64 then
    tcg_gen_bswap32_i32 T (TCGV_LOW ret) (TCGV_LOW arg)
    tcg_gen_movi_i32 (TCGV_HIGH ret) 0
  else if T.TCG_TARGET_HAS_bswap32_i64 then
    tcg_gen_op2 .bswap32_i64 ret arg
  else
    let t0 ← tcg_temp_new_i64 T
    let t1 ← tcg_temp_new_i64 T
    let t2 ← tcg_const_i64 T 0x00ff00ff
    tcg_gen_shri_i64 T t0 arg 8
    tcg_gen_and_i64 T t1 arg t2
    tcg_gen_and_i64 T t0 t0 t2
    tcg_gen_shli_i64 T t1 t1 8
    tcg_gen_or_i64 T ret t0 t1
    tcg_gen_shli_i64 T t1 ret 48
    tcg_gen_shri_i64 T t0 ret 16
    tcg_gen_shri_i64 T t1 t1 32
    tcg_gen_or_i64 T ret t0 t1
    tcg_temp_free_i64 t0
    tcg_temp_free_i64 t1
    tcg_temp_free_i64 t2

def tcg_gen_bswap64_i64 (T : TCGTarget) (ret arg : TCGv_i64) : Gen Unit := do
  if ¬ T.reg64 then
    let t0 ← tcg_temp_new_i32
    let t1 ← tcg_temp_new_i32
    tcg_gen_bswap32_i32 T t0 (TCGV_LOW arg)
    tcg_gen_bswap32_i32 T t1 (TCGV_HIGH arg)
    tcg_gen_mov_i32 (TCGV_LOW ret) t1
    tcg_gen_mov_i32 (TCGV_HIGH ret) t0
    tcg_temp_free_i32 t0
    tcg_temp_free_i32 t1
  else if T.TCG_TARGET_HAS_bswap64_i64 then
    tcg_gen_op2 .bswap64_i64 ret arg
  else
    let t0 ← tcg_temp_new_i64 T
    let t1 ← tcg_temp_new_i64 T
    let t2 ← tcg_temp_new_i64 T
    tcg_gen_movi_i64 T t2 0x00ff00ff00ff00ff
    tcg_gen_shri_i64 T t0 arg 8
    tcg_gen_and_i64 T t1 arg t2
    tcg_gen_and_i64 T t0 t0 t2
    tcg_gen_shli_i64 T t1 t1 8
    tcg_gen_or_i64 T ret t0 t1
    tcg_gen_movi_i64 T t2 0x0000ffff0000ffff
    tcg_gen_shri_i64 T t0 ret 16
    tcg_gen_and_i64 T t1 ret t2
    tcg_gen_and_i64 T t0 t0 t2
    tcg_gen_shli_i64 T t1 t1 16
    tcg_gen_or_i64 T ret t0 t1
    tcg_gen_shri_i64 T t0 ret 32
    tcg_gen_shli_i64 T t1 ret 32
    tcg_gen_or_i64 T ret t0 t1
    tcg_temp_free_i64 t0
    tcg_temp_free_i64 t1
    tcg_temp_free_i64 t2

def tcg_gen_not_i64 (T : TCGTarget) (ret arg : TCGv_i64) : Gen Unit := do
  if ¬ T.reg64 then
    tcg_gen_not_i32 T (TCGV_LOW ret) (TCGV_LOW arg)
    tcg_gen_not_i32 T (TCGV_HIGH ret) (TCGV_HIGH arg)
  else if T.TCG_TARGET_HAS_not_i64 then
    tcg_gen_op2 .not_i64 ret arg
  else
    tcg_gen_xori_i64 T ret arg 0xffffffffffffffff

/-- Modelled from the spec: `tcg_gen_neg_i64` (tcg-op.h): the native op if
available, else `0 - arg`. -/
def tcg_gen_neg_i64 (T : TCGTarget) (ret arg : TCGv_i64) : Gen Unit :=
  if T.TCG_TARGET_HAS_neg_i64 then
    tcg_gen_op2 .neg_i64 ret arg
  else
    tcg_gen_subfi_i64 T ret 0 arg

def tcg_gen_andc_i64 (T : TCGTarget) (ret arg1 arg2 : TCGv_i64) : Gen Unit := do
  if ¬ T.reg64 then
    tcg_gen_andc_i32 T (TCGV_LOW ret) (TCGV_LOW arg1) (TCGV_LOW arg2)
    tcg_gen_andc_i32 T (TCGV_HIGH ret) (TCGV_HIGH arg1) (TCGV_HIGH arg2)
  else if T.TCG_TARGET_HAS_andc_i64 then
    tcg_gen_op3 .andc_i64 ret arg1 arg2
  else
    let t0 ← tcg_temp_new_i64 T
    tcg_gen_not_i64 T t0 arg2
    tcg_gen_and_i64 T ret arg1 t0
    tcg_temp_free_i64 t0

def tcg_gen_clz_i64 (T : TCGTarget) (ret arg1 arg2 : TCGv_i64) : Gen Unit :=
  if T.TCG_TARGET_HAS_clz_i64 then
    tcg_gen_op3 .clz_i64 ret arg1 arg2
  else
    gen_helper_i64 T .clz_i64 ret arg1 arg2

def tcg_gen_extrl_i64_i32 (T : TCGTarget) (ret : TCGv_i32) (arg : TCGv_i64) : Gen Unit :=
  if ¬ T.reg64 then
    tcg_gen_mov_i32 ret (TCGV_LOW arg)
  else if T.TCG_TARGET_HAS_extrl_i64_i32 then
    tcg_gen_op2 .extrl_i64_i32 ret arg
  else
    tcg_gen_mov_i32 ret arg

def tcg_gen_extu_i32_i64 (T : TCGTarget) (ret : TCGv_i64) (arg : TCGv_i32) : Gen Unit := do
  if ¬ T.reg64 then
    tcg_gen_mov_i32 (TCGV_LOW ret) arg
    tcg_gen_movi_i32 (TCGV_HIGH ret) 0
  else
    tcg_gen_op2 .extu_i32_i64 ret arg

def tcg_gen_clz_i32 (T : TCGTarget) (ret arg1 arg2 : TCGv_i32) : Gen Unit := do
  if T.TCG_TARGET_HAS_clz_i32 then
    tcg_gen_op3 .clz_i32 ret arg1 arg2
  else if T.TCG_TARGET_HAS_clz_i64 then
    let t1 ← tcg_temp_new_i64 T
    let t2 ← tcg_temp_new_i64 T
    tcg_gen_extu_i32_i64 T t1 arg1
    tcg_gen_extu_i32_i64 T t2 arg2
    tcg_gen_addi_i64 T t2 t2 32
    tcg_gen_clz_i64 T t1 t1 t2
    tcg_gen_extrl_i64_i32 T ret t1
    tcg_temp_free_i64 t1
    tcg_temp_free_i64 t2
    tcg_gen_subi_i32 ret ret 32
  else
    gen_helper_clz_i32 ret arg1 arg2

def tcg_gen_clzi_i32 (T : TCGTarget) (ret arg1 : TCGv_i32) (arg2 : Nat) : Gen Unit := do
  let t ← tcg_const_i32 arg2
  tcg_gen_clz_i32 T ret arg1 t
  tcg_temp_free_i32 t

def tcg_gen_clzi_i64 (T : TCGTarget) (ret arg1 : TCGv_i64) (arg2 : Nat) : Gen Unit := do
  if ¬ T.reg64 ∧ T.TCG_TARGET_HAS_clz_i32 ∧ arg2 ≤ 0xffffffff then
    let t ← tcg_const_i32 ((arg2 % 2 ^ 32 + 2 ^ 32 - 32) % 2 ^ 32)
    tcg_gen_clz_i32 T t (TCGV_LOW arg1) t
    tcg_gen_addi_i32 t t 32
    tcg_gen_clz_i32 T (TCGV_LOW ret) (TCGV_HIGH arg1) t
    tcg_gen_movi_i32 (TCGV_HIGH ret) 0
    tcg_temp_free_i32 t
  else
    let t ← tcg_const_i64 T arg2
    tcg_gen_clz_i64 T ret arg1 t
    tcg_temp_free_i64 t

def tcg_gen_rotl_i64 (T : TCGTarget) (ret arg1 arg2 : TCGv_i64) : Gen Unit := do
  if T.TCG_TARGET_HAS_rot_i64 then
    tcg_gen_op3 .rotl_i64 ret arg1 arg2
  else
    let t0 ← tcg_temp_new_i64 T
    let t1 ← tcg_temp_new_i64 T
    tcg_gen_shl_i64 T t0 arg1 arg2
    tcg_gen_subfi_i64 T t1 64 arg2
    tcg_gen_shr_i64 T t1 arg1 t1
    tcg_gen_or_i64 T ret t0 t1
    tcg_temp_free_i64 t0
    tcg_temp_free_i64 t1

def tcg_gen_rotli_i64 (T : TCGTarget) (ret arg1 : TCGv_i64) (arg2 : Nat) : Gen Unit := do
  tcg_debug_assert (decide (arg2 < 64))
  if arg2 = 0 then
    tcg_gen_mov_i64 T ret arg1
  else if T.TCG_TARGET_HAS_rot_i64 then
    let t0 ← tcg_const_i64 T arg2
    tcg_gen_rotl_i64 T ret arg1 t0
    tcg_temp_free_i64 t0
  else
    let t0 ← tcg_temp_new_i64 T
    let t1 ← tcg_temp_new_i64 T
    tcg_gen_shli_i64 T t0 arg1 arg2
    tcg_gen_shri_i64 T t1 arg1 (64 - arg2)
    tcg_gen_or_i64 T ret t0 t1
    tcg_temp_free_i64 t0
    tcg_temp_free_i64 t1

def tcg_gen_rotri_i64 (T : TCGTarget) (ret arg1 : TCGv_i64) (arg2 : Nat) : Gen Unit := do
  tcg_debug_assert (decide (arg2 < 64))
  if arg2 = 0 then
    tcg_gen_mov_i64 T ret arg1
  else
    tcg_gen_rotli_i64 T ret arg1 (64 - arg2)

mutual

def tcg_gen_deposit_i64 (T : TCGTarget) (ret arg1 arg2 : TCGv_i64) (ofs len : Nat) :
    Gen Unit := do
  tcg_debug_assert (decide (ofs < 64))
  tcg_debug_assert (decide (len > 0))
  tcg_debug_assert (decide (len ≤ 64))
  tcg_debug_assert (decide (ofs + len ≤ 64))
  if len = 64 then
    tcg_gen_mov_i64 T ret arg2
  else if T.TCG_TARGET_HAS_deposit_i64 ∧ T.TCG_TARGET_deposit_i64_valid ofs len then
    tcg_gen_op5 .deposit_i64 ret arg1 arg2 ofs len
  else if ¬ T.reg64 ∧ ofs ≥ 32 then
    tcg_gen_deposit_i32 T (TCGV_HIGH ret) (TCGV_HIGH arg1) (TCGV_LOW arg2) (ofs - 32) len
    tcg_gen_mov_i32 (TCGV_LOW ret) (TCGV_LOW arg1)
  else if ¬ T.reg64 ∧ ofs + len ≤ 32 then
    tcg_gen_deposit_i32 T (TCGV_LOW ret) (TCGV_LOW arg1) (TCGV_LOW arg2) ofs len
    tcg_gen_mov_i32 (TCGV_HIGH ret) (TCGV_HIGH arg1)
  else
    let t1 ← tcg_temp_new_i64 T
    if h : T.TCG_TARGET_HAS_extract2_i64 = true ∧ ofs + len = 64 then
      tcg_gen_shli_i64 T t1 arg1 len
      tcg_gen_extract2_i64 T ret t1 arg2 len
      tcg_temp_free_i64 t1
    else if h : T.TCG_TARGET_HAS_extract2_i64 = true ∧ ofs = 0 then
      tcg_gen_extract2_i64 T ret arg1 arg2 len
      tcg_gen_rotli_i64 T ret ret len
      tcg_temp_free_i64 t1
    else
      (if ofs + len < 64 then do
        tcg_gen_andi_i64 T t1 arg2 (2 ^ len - 1)
        tcg_gen_shli_i64 T t1 t1 ofs
      else
        tcg_gen_shli_i64 T t1 arg2 ofs)
      tcg_gen_andi_i64 T ret arg1 (bnot 64 ((2 ^ len - 1) <<< ofs))
      tcg_gen_or_i64 T ret ret t1
      tcg_temp_free_i64 t1
termination_by 1
decreasing_by
  all_goals simp_wf
  all_goals simp [h.1]

/-- Extract 64 bits from the 128-bit input `ah:al`, starting from `ofs`. -/
def tcg_gen_extract2_i64 (T : TCGTarget) (ret al ah : TCGv_i64) (ofs : Nat) : Gen Unit := do
  tcg_debug_assert (decide (ofs ≤ 64))
  if ofs = 0 then
    tcg_gen_mov_i64 T ret al
  else if ofs = 64 then
    tcg_gen_mov_i64 T ret ah
  else if al = ah then
    tcg_gen_rotri_i64 T ret al ofs
  else if h : T.TCG_TARGET_HAS_extract2_i64 = true then
    tcg_gen_op4 .extract2_i64 ret al ah ofs
  else
    let t0 ← tcg_temp_new_i64 T
    tcg_gen_shri_i64 T t0 al ofs
    tcg_gen_deposit_i64 T ret t0 ah (64 - ofs) ofs
    tcg_temp_free_i64 t0
termination_by (if T.TCG_TARGET_HAS_extract2_i64 = true then 0 else 2)
decreasing_by
  all_goals simp_wf
  all_goals simp [h]

end

def tcg_gen_extract_i64 (T : TCGTarget) (ret arg : TCGv_i64) (ofs len : Nat) : Gen Unit := do
  tcg_debug_assert (decide (ofs < 64))
  tcg_debug_assert (decide (len > 0))
  tcg_debug_assert (decide (len ≤ 64))
  tcg_debug_assert (decide (ofs + len ≤ 64))
  if ofs + len = 64 then
    tcg_gen_shri_i64 T ret arg (64 - len)
  else if ofs = 0 then
    tcg_gen_andi_i64 T ret arg (2 ^ len - 1)
  else if ¬ T.reg64 then
    if ofs ≥ 32 then
      tcg_gen_extract_i32 T (TCGV_LOW ret) (TCGV_HIGH arg) (ofs - 32) len
      tcg_gen_movi_i32 (TCGV_HIGH ret) 0
    else if ofs + len ≤ 32 then
      tcg_gen_extract_i32 T (TCGV_LOW ret) (TCGV_LOW arg) ofs len
      tcg_gen_movi_i32 (TCGV_HIGH ret) 0
    else
      tcg_gen_shri_i64 T ret arg ofs
      tcg_gen_andi_i64 T ret ret (2 ^ len - 1)
  else if T.TCG_TARGET_HAS_extract_i64 ∧ T.TCG_TARGET_extract_i64_valid ofs len then
    tcg_gen_op4 .extract_i64 ret arg ofs len
  else if ofs + len = 32 ∧ T.TCG_TARGET_HAS_ext32u_i64 then
    tcg_gen_ext32u_i64 T ret arg
    tcg_gen_shri_i64 T ret ret ofs
  else if ofs + len = 16 ∧ T.TCG_TARGET_HAS_ext16u_i64 then
    tcg_gen_ext16u_i64 T ret arg
    tcg_gen_shri_i64 T ret ret ofs
  else if ofs + len = 8 ∧ T.TCG_TARGET_HAS_ext8u_i64 then
    tcg_gen_ext8u_i64 T ret arg
    tcg_gen_shri_i64 T ret ret ofs
  else if (1 ≤ len ∧ len ≤ 8) ∨ len = 16 ∨ len = 32 then
    tcg_gen_shri_i64 T ret arg ofs
    tcg_gen_andi_i64 T ret ret (2 ^ len - 1)
  else
    tcg_gen_shli_i64 T ret arg (64 - len - ofs)
    tcg_gen_shri_i64 T ret ret (64 - len)

def tcg_gen_sextract_i64 (T : TCGTarget) (ret arg : TCGv_i64) (ofs len : Nat) : Gen Unit := do
  tcg_debug_assert (decide (ofs < 64))
  tcg_debug_assert (decide (len > 0))
  tcg_debug_assert (decide (len ≤ 64))
  tcg_debug_assert (decide (ofs + len ≤ 64))
  if ofs + len = 64 then
    tcg_gen_sari_i64 T ret arg (64 - len)
  else if ofs = 0 ∧ len = 32 then
    tcg_gen_ext32s_i64 T ret arg
  else if ofs = 0 ∧ len = 16 then
    tcg_gen_ext16s_i64 T ret arg
  else if ofs = 0 ∧ len = 8 then
    tcg_gen_ext8s_i64 T ret arg
  else if ¬ T.reg64 then
    -- the three branches that do not return early share the final sign extension
    if ofs ≥ 32 then
      tcg_gen_sextract_i32 T (TCGV_LOW ret) (TCGV_HIGH arg) (ofs - 32) len
      tcg_gen_sari_i32 (TCGV_HIGH ret) (TCGV_LOW ret) 31
    else if ofs + len ≤ 32 then
      tcg_gen_sextract_i32 T (TCGV_LOW ret) (TCGV_LOW arg) ofs len
      tcg_gen_sari_i32 (TCGV_HIGH ret) (TCGV_LOW ret) 31
    else if ofs = 0 then
      tcg_gen_mov_i32 (TCGV_LOW ret) (TCGV_LOW arg)
      tcg_gen_sextract_i32 T (TCGV_HIGH ret) (TCGV_HIGH arg) 0 (len - 32)
    else if len > 32 then
      let t ← tcg_temp_new_i32
      tcg_gen_sextract_i32 T t (TCGV_HIGH arg) (ofs + 32) (len - 32)
      tcg_gen_shri_i64 T ret arg ofs
      tcg_gen_mov_i32 (TCGV_HIGH ret) t
      tcg_temp_free_i32 t
    else
      tcg_gen_shri_i64 T ret arg (ofs + len - 32)
      tcg_gen_sari_i32 (TCGV_LOW ret) (TCGV_LOW ret) (32 - len)
      tcg_gen_sari_i32 (TCGV_HIGH ret) (TCGV_LOW ret) 31
  else if T.TCG_TARGET_HAS_sextract_i64 ∧ T.TCG_TARGET_extract_i64_valid ofs len then
    tcg_gen_op4 .sextract_i64 ret arg ofs len
  else if ofs + len = 32 ∧ T.TCG_TARGET_HAS_ext32s_i64 then
    tcg_gen_ext32s_i64 T ret arg
    tcg_gen_sari_i64 T ret ret ofs
  else if ofs + len = 16 ∧ T.TCG_TARGET_HAS_ext16s_i64 then
    tcg_gen_ext16s_i64 T ret arg
    tcg_gen_sari_i64 T ret ret ofs
  else if ofs + len = 8 ∧ T.TCG_TARGET_HAS_ext8s_i64 then
    tcg_gen_ext8s_i64 T ret arg
    tcg_gen_sari_i64 T ret ret ofs
  else if len = 32 ∧ T.TCG_TARGET_HAS_ext32s_i64 then
    tcg_gen_shri_i64 T ret arg ofs
    tcg_gen_ext32s_i64 T ret ret
  else if len = 16 ∧ T.TCG_TARGET_HAS_ext16s_i64 then
    tcg_gen_shri_i64 T ret arg ofs
    tcg_gen_ext16s_i64 T ret ret
  else if len = 8 ∧ T.TCG_TARGET_HAS_ext8s_i64 then
    tcg_gen_shri_i64 T ret arg ofs
    tcg_gen_ext8s_i64 T ret ret
  else
    tcg_gen_shli_i64 T ret arg (64 - len - ofs)
    tcg_gen_sari_i64 T ret ret (64 - len)

def tcg_gen_movcond_i64 (T : TCGTarget) (cond : TCGCond) (ret c1 c2 v1 v2 : TCGv_i64) :
    Gen Unit := do
  if cond = .ALWAYS then
    tcg_gen_mov_i64 T ret v1
  else if cond = .NEVER then
    tcg_gen_mov_i64 T ret v2
  else if ¬ T.reg64 then
    let t0 ← tcg_temp_new_i32
    let t1 ← tcg_temp_new_i32
    tcg_gen_op6 .setcond2_i32 t0 (TCGV_LOW c1) (TCGV_HIGH c1) (TCGV_LOW c2) (TCGV_HIGH c2)
      cond.toArg
    if T.TCG_TARGET_HAS_movcond_i32 then
      tcg_gen_movi_i32 t1 0
      tcg_gen_movcond_i32 T .NE (TCGV_LOW ret) t0 t1 (TCGV_LOW v1) (TCGV_LOW v2)
      tcg_gen_movcond_i32 T .NE (TCGV_HIGH ret) t0 t1 (TCGV_HIGH v1) (TCGV_HIGH v2)
    else
      tcg_gen_neg_i32 T t0 t0
      tcg_gen_and_i32 t1 (TCGV_LOW v1) t0
      tcg_gen_andc_i32 T (TCGV_LOW ret) (TCGV_LOW v2) t0
      tcg_gen_or_i32 (TCGV_LOW ret) (TCGV_LOW ret) t1
      tcg_gen_and_i32 t1 (TCGV_HIGH v1) t0
      tcg_gen_andc_i32 T (TCGV_HIGH ret) (TCGV_HIGH v2) t0
      tcg_gen_or_i32 (TCGV_HIGH ret) (TCGV_HIGH ret) t1
    tcg_temp_free_i32 t0
    tcg_temp_free_i32 t1
  else if T.TCG_TARGET_HAS_movcond_i64 then
    tcg_gen_op6 .movcond_i64 ret c1 c2 v1 v2 cond.toArg
  else
    let t0 ← tcg_temp_new_i64 T
    let t1 ← tcg_temp_new_i64 T
    tcg_gen_setcond_i64 T cond t0 c1 c2
    tcg_gen_neg_i64 T t0 t0
    tcg_gen_and_i64 T t1 v1 t0
    tcg_gen_andc_i64 T ret v2 t0
    tcg_gen_or_i64 T ret ret t1
    tcg_temp_free_i64 t0
    tcg_temp_free_i64 t1

def tcg_gen_smin_i32 (T : TCGTarget) (ret a b : TCGv_i32) : Gen Unit :=
  tcg_gen_movcond_i32 T .LT ret a b a b

def tcg_gen_umin_i32 (T : TCGTarget) (ret a b : TCGv_i32) : Gen Unit :=
  tcg_gen_movcond_i32 T .LTU ret a b a b

def tcg_gen_smax_i32 (T : TCGTarget) (ret a b : TCGv_i32) : Gen Unit :=
  tcg_gen_movcond_i32 T .LT ret a b b a

def tcg_gen_umax_i32 (T : TCGTarget) (ret a b : TCGv_i32) : Gen Unit :=
  tcg_gen_movcond_i32 T .LTU ret a b b a

def tcg_gen_smin_i64 (T : TCGTarget) (ret a b : TCGv_i64) : Gen Unit :=
  tcg_gen_movcond_i64 T .LT ret a b a b

def tcg_gen_umin_i64 (T : TCGTarget) (ret a b : TCGv_i64) : Gen Unit :=
  tcg_gen_movcond_i64 T .LTU ret a b a b

def tcg_gen_smax_i64 (T : TCGTarget) (ret a b : TCGv_i64) : Gen Unit :=
  tcg_gen_movcond_i64 T .LT ret a b b a

def tcg_gen_umax_i64 (T : TCGTarget) (ret a b : TCGv_i64) : Gen Unit :=
  tcg_gen_movcond_i64 T .LTU ret a b b a

def tcg_gen_abs_i32 (ret a : TCGv_i32) : Gen Unit := do
  let t ← tcg_temp_new_i32
  tcg_gen_sari_i32 t a 31
  tcg_gen_xor_i32 ret a t
  tcg_gen_sub_i32 ret ret t
  tcg_temp_free_i32 t

def tcg_gen_abs_i64 (T : TCGTarget) (ret a : TCGv_i64) : Gen Unit := do
  let t ← tcg_temp_new_i64 T
  tcg_gen_sari_i64 T t a 63
  tcg_gen_xor_i64 T ret a t
  tcg_gen_sub_i64 T ret ret t
  tcg_temp_free_i64 t

def tcg_gen_rotr_i64 (T : TCGTarget) (ret arg1 arg2 : TCGv_i64) : Gen Unit := do
  if T.TCG_TARGET_HAS_rot_i64 then
    tcg_gen_op3 .rotr_i64 ret arg1 arg2
  else
    let t0 ← tcg_temp_new_i64 T
    let t1 ← tcg_temp_new_i64 T
    tcg_gen_shr_i64 T t0 arg1 arg2
    tcg_gen_subfi_i64 T t1 64 arg2
    tcg_gen_shl_i64 T t1 arg1 t1
    tcg_gen_or_i64 T ret t0 t1
    tcg_temp_free_i64 t0
    tcg_temp_free_i64 t1

/-! ### Trailing-zero and population counts -/

/-- Modelled from the spec: `gen_helper_ctz_i32` (generated from helper.h). -/
def gen_helper_ctz_i32 (ret arg1 arg2 : TCGv_i32) : Gen Unit :=
  tcg_gen_callN .ctz_i32 [ret, arg1, arg2]

/-- Modelled from the spec: `gen_helper_ctpop_i32` (generated from helper.h). -/
def gen_helper_ctpop_i32 (ret arg1 : TCGv_i32) : Gen Unit :=
  tcg_gen_callN .ctpop_i32 [ret, arg1]

/-- Modelled from the spec: `gen_helper_ctpop_i64` (generated from helper.h); on
a 32-bit host each value is passed as its low/high pair. -/
def gen_helper_ctpop_i64 (T : TCGTarget) (ret arg1 : TCGv_i64) : Gen Unit :=
  if T.reg64 then
    tcg_gen_callN .ctpop_i64 [ret, arg1]
  else
    tcg_gen_callN .ctpop_i64 [TCGV_LOW ret, TCGV_HIGH ret, TCGV_LOW arg1, TCGV_HIGH arg1]

mutual

def tcg_gen_ctpop_i32 (T : TCGTarget) (ret arg1 : TCGv_i32) : Gen Unit := do
  if T.TCG_TARGET_HAS_ctpop_i32 then
    tcg_gen_op2 .ctpop_i32 ret arg1
  else if h : T.TCG_TARGET_HAS_ctpop_i64 = true then
    let t ← tcg_temp_new_i64 T
    tcg_gen_extu_i32_i64 T t arg1
    tcg_gen_ctpop_i64 T t t
    tcg_gen_extrl_i64_i32 T ret t
    tcg_temp_free_i64 t
  else
    gen_helper_ctpop_i32 ret arg1
termination_by (if T.TCG_TARGET_HAS_ctpop_i64 = true then 1 else 0)
decreasing_by
  all_goals simp_wf
  all_goals simp [h]

def tcg_gen_ctpop_i64 (T : TCGTarget) (ret arg1 : TCGv_i64) : Gen Unit := do
  if h : T.TCG_TARGET_HAS_ctpop_i64 = true then
    tcg_gen_op2 .ctpop_i64 ret arg1
  else if ¬ T.reg64 ∧ T.TCG_TARGET_HAS_ctpop_i32 then
    tcg_gen_ctpop_i32 T (TCGV_HIGH ret) (TCGV_HIGH arg1)
    tcg_gen_ctpop_i32 T (TCGV_LOW ret) (TCGV_LOW arg1)
    tcg_gen_add_i32 (TCGV_LOW ret) (TCGV_LOW ret) (TCGV_HIGH ret)
    tcg_gen_movi_i32 (TCGV_HIGH ret) 0
  else
    gen_helper_ctpop_i64 T ret arg1
termination_by (if T.TCG_TARGET_HAS_ctpop_i64 = true then 0 else 2)
decreasing_by
  all_goals simp_wf
  all_goals simp [h]

end

def tcg_gen_ctz_i64 (T : TCGTarget) (ret arg1 arg2 : TCGv_i64) : Gen Unit := do
  if T.TCG_TARGET_HAS_ctz_i64 then
    tcg_gen_op3 .ctz_i64 ret arg1 arg2
  else if T.TCG_TARGET_HAS_ctpop_i64 ∨ T.TCG_TARGET_HAS_clz_i64 then
    let t ← tcg_temp_new_i64 T
    if T.TCG_TARGET_HAS_ctpop_i64 then
      tcg_gen_subi_i64 T t arg1 1
      tcg_gen_andc_i64 T t t arg1
      tcg_gen_ctpop_i64 T t t
    else
      tcg_gen_neg_i64 T t arg1
      tcg_gen_and_i64 T t t arg1
      tcg_gen_clzi_i64 T t t 64
      tcg_gen_xori_i64 T t t 63
    let z ← tcg_const_i64 T 0
    tcg_gen_movcond_i64 T .EQ ret arg1 z arg2 t
    tcg_temp_free_i64 t
    tcg_temp_free_i64 z
  else
    gen_helper_i64 T .ctz_i64 ret arg1 arg2

def tcg_gen_ctz_i32 (T : TCGTarget) (ret arg1 arg2 : TCGv_i32) : Gen Unit := do
  if T.TCG_TARGET_HAS_ctz_i32 then
    tcg_gen_op3 .ctz_i32 ret arg1 arg2
  else if T.TCG_TARGET_HAS_ctz_i64 then
    let t1 ← tcg_temp_new_i64 T
    let t2 ← tcg_temp_new_i64 T
    tcg_gen_extu_i32_i64 T t1 arg1
    tcg_gen_extu_i32_i64 T t2 arg2
    tcg_gen_ctz_i64 T t1 t1 t2
    tcg_gen_extrl_i64_i32 T ret t1
    tcg_temp_free_i64 t1
    tcg_temp_free_i64 t2
  else if T.TCG_TARGET_HAS_ctpop_i32 ∨ T.TCG_TARGET_HAS_ctpop_i64
      ∨ T.TCG_TARGET_HAS_clz_i32 ∨ T.TCG_TARGET_HAS_clz_i64 then
    let t ← tcg_temp_new_i32
    if T.TCG_TARGET_HAS_ctpop_i32 ∨ T.TCG_TARGET_HAS_ctpop_i64 then
      tcg_gen_subi_i32 t arg1 1
      tcg_gen_andc_i32 T t t arg1
      tcg_gen_ctpop_i32 T t t
    else
      tcg_gen_neg_i32 T t arg1
      tcg_gen_and_i32 t t arg1
      tcg_gen_clzi_i32 T t t 32
      tcg_gen_xori_i32 T t t 31
    let z ← tcg_const_i32 0
    tcg_gen_movcond_i32 T .EQ ret arg1 z arg2 t
    tcg_temp_free_i32 t
    tcg_temp_free_i32 z
  else
    gen_helper_ctz_i32 ret arg1 arg2

def tcg_gen_ctzi_i32 (T : TCGTarget) (ret arg1 : TCGv_i32) (arg2 : Nat) : Gen Unit := do
  if ¬ T.TCG_TARGET_HAS_ctz_i32 ∧ T.TCG_TARGET_HAS_ctpop_i32 ∧ arg2 = 32 then
    let t ← tcg_temp_new_i32
    tcg_gen_subi_i32 t arg1 1
    tcg_gen_andc_i32 T t t arg1
    tcg_gen_ctpop_i32 T ret t
    tcg_temp_free_i32 t
  else
    let t ← tcg_const_i32 arg2
    tcg_gen_ctz_i32 T ret arg1 t
    tcg_temp_free_i32 t

def tcg_gen_ctzi_i64 (T : TCGTarget) (ret arg1 : TCGv_i64) (arg2 : Nat) : Gen Unit := do
  if ¬ T.reg64 ∧ T.TCG_TARGET_HAS_ctz_i32 ∧ arg2 ≤ 0xffffffff then
    let t32 ← tcg_const_i32 ((arg2 % 2 ^ 32 + 2 ^ 32 - 32) % 2 ^ 32)
    tcg_gen_ctz_i32 T t32 (TCGV_HIGH arg1) t32
    tcg_gen_addi_i32 t32 t32 32
    tcg_gen_ctz_i32 T (TCGV_LOW ret) (TCGV_LOW arg1) t32
    tcg_gen_movi_i32 (TCGV_HIGH ret) 0
    tcg_temp_free_i32 t32
  else if ¬ T.TCG_TARGET_HAS_ctz_i64 ∧ T.TCG_TARGET_HAS_ctpop_i64 ∧ arg2 = 64 then
    let t ← tcg_temp_new_i64 T
    tcg_gen_subi_i64 T t arg1 1
    tcg_gen_andc_i64 T t t arg1
    tcg_gen_ctpop_i64 T ret t
    tcg_temp_free_i64 t
  else
    let t64 ← tcg_const_i64 T arg2
    tcg_gen_ctz_i64 T ret arg1 t64
    tcg_temp_free_i64 t64

/-! ### Immediate forms, multiplication and double-word arithmetic -/

def tcg_gen_ori_i32 (ret arg1 : TCGv_i32) (arg2 : Nat) : Gen Unit := do
  if arg2 = 0xffffffff then
    tcg_gen_movi_i32 ret 0xffffffff
  else if arg2 = 0 then
    tcg_gen_mov_i32 ret arg1
  else
    let t0 ← tcg_const_i32 arg2
    tcg_gen_or_i32 ret arg1 t0
    tcg_temp_free_i32 t0

def tcg_gen_ori_i64 (T : TCGTarget) (ret arg1 : TCGv_i64) (arg2 : Nat) : Gen Unit := do
  if ¬ T.reg64 then
    tcg_gen_ori_i32 (TCGV_LOW ret) (TCGV_LOW arg1) (arg2 % 2 ^ 32)
    tcg_gen_ori_i32 (TCGV_HIGH ret) (TCGV_HIGH arg1) ((arg2 >>> 32) % 2 ^ 32)
  else if arg2 = 0xffffffffffffffff then
    tcg_gen_movi_i64 T ret 0xffffffffffffffff
  else if arg2 = 0 then
    tcg_gen_mov_i64 T ret arg1
  else
    let t0 ← tcg_const_i64 T arg2
    tcg_gen_or_i64 T ret arg1 t0
    tcg_temp_free_i64 t0

/-- Modelled from the spec: `tcg_gen_mul_i32` (tcg-op.h). -/
def tcg_gen_mul_i32 (ret arg1 arg2 : TCGv_i32) : Gen Unit :=
  tcg_gen_op3 .mul_i32 ret arg1 arg2

/-- Modelled from the spec: `is_power_of_2` (host-utils.h) on a 64-bit pattern:
"value && !(value & (value - 1))". -/
def is_power_of_2 (value : Nat) : Bool :=
  decide (value ≠ 0) && decide (value &&& (value - 1) = 0)

/-- The constant `arg2` is a 32-bit pattern; `is_power_of_2` receives it
converted from `int32_t`, that is sign-extended to 64 bits. -/
def tcg_gen_muli_i32 (ret arg1 : TCGv_i32) (arg2 : Nat) : Gen Unit := do
  if arg2 = 0 then
    tcg_gen_movi_i32 ret 0
  else if is_power_of_2 (sext 64 32 arg2) then
    tcg_gen_shli_i32 ret arg1 (ctz 32 arg2)
  else
    let t0 ← tcg_const_i32 arg2
    tcg_gen_mul_i32 ret arg1 t0
    tcg_temp_free_i32 t0

def tcg_gen_extrh_i64_i32 (T : TCGTarget) (ret : TCGv_i32) (arg : TCGv_i64) : Gen Unit := do
  if ¬ T.reg64 then
    tcg_gen_mov_i32 ret (TCGV_HIGH arg)
  else if T.TCG_TARGET_HAS_extrh_i64_i32 then
    tcg_gen_op2 .extrh_i64_i32 ret arg
  else
    let t ← tcg_temp_new_i64 T
    tcg_gen_shri_i64 T t arg 32
    tcg_gen_mov_i32 ret t
    tcg_temp_free_i64 t

def tcg_gen_ext_i32_i64 (T : TCGTarget) (ret : TCGv_i64) (arg : TCGv_i32) : Gen Unit := do
  if ¬ T.reg64 then
    tcg_gen_mov_i32 (TCGV_LOW ret) arg
    tcg_gen_sari_i32 (TCGV_HIGH ret) (TCGV_LOW ret) 31
  else
    tcg_gen_op2 .ext_i32_i64 ret arg

def tcg_gen_extr_i64_i32 (T : TCGTarget) (lo hi : TCGv_i32) (arg : TCGv_i64) : Gen Unit := do
  if ¬ T.reg64 then
    tcg_gen_mov_i32 lo (TCGV_LOW arg)
    tcg_gen_mov_i32 hi (TCGV_HIGH arg)
  else
    tcg_gen_extrl_i64_i32 T lo arg
    tcg_gen_extrh_i64_i32 T hi arg

/-- The nesting of calls between `tcg_gen_mul_i64` and `tcg_gen_mulu2_i32` has
exceeded the call depth allowed: emission yields no result. -/
def out_of_fuel {α : Type} : Gen α := fun s => (none, s)

mutual

/-- On a 64-bit host the inline wrapper of tcg-op.h (one multiply op, modelled
from the spec); on a 32-bit host the function of tcg-op.c.  The two routines
of this block call each other; `fuel` bounds the depth of that nesting. -/
def tcg_gen_mul_i64 (T : TCGTarget) (fuel : Nat) (ret arg1 arg2 : TCGv_i64) : Gen Unit :=
  if T.reg64 then
    tcg_gen_op3 .mul_i64 ret arg1 arg2
  else
    match fuel with
    | 0 => out_of_fuel
    | fuel + 1 => do
      let t0 ← tcg_temp_new_i64 T
      let t1 ← tcg_temp_new_i32
      tcg_gen_mulu2_i32 T fuel (TCGV_LOW t0) (TCGV_HIGH t0) (TCGV_LOW arg1) (TCGV_LOW arg2)
      tcg_gen_mul_i32 t1 (TCGV_LOW arg1) (TCGV_HIGH arg2)
      tcg_gen_add_i32 (TCGV_HIGH t0) (TCGV_HIGH t0) t1
      tcg_gen_mul_i32 t1 (TCGV_HIGH arg1) (TCGV_LOW arg2)
      tcg_gen_add_i32 (TCGV_HIGH t0) (TCGV_HIGH t0) t1
      tcg_gen_mov_i64 T ret t0
      tcg_temp_free_i64 t0
      tcg_temp_free_i32 t1

def tcg_gen_mulu2_i32 (T : TCGTarget) (fuel : Nat) (rl rh arg1 arg2 : TCGv_i32) : Gen Unit :=
  if T.TCG_TARGET_HAS_mulu2_i32 then
    tcg_gen_op4 .mulu2_i32 rl rh arg1 arg2
  else if T.TCG_TARGET_HAS_muluh_i32 then do
    let t ← tcg_temp_new_i32
    tcg_gen_op3 .mul_i32 t arg1 arg2
    tcg_gen_op3 .muluh_i32 rh arg1 arg2
    tcg_gen_mov_i32 rl t
    tcg_temp_free_i32 t
  else
    match fuel with
    | 0 => out_of_fuel
    | fuel + 1 => do
      let t0 ← tcg_temp_new_i64 T
      let t1 ← tcg_temp_new_i64 T
      tcg_gen_extu_i32_i64 T t0 arg1
      tcg_gen_extu_i32_i64 T t1 arg2
      tcg_gen_mul_i64 T fuel t0 t0 t1
      tcg_gen_extr_i64_i32 T rl rh t0
      tcg_temp_free_i64 t0
      tcg_temp_free_i64 t1

end

def tcg_gen_muli_i64 (T : TCGTarget) (fuel : Nat) (ret arg1 : TCGv_i64) (arg2 : Nat) :
    Gen Unit := do
  if arg2 = 0 then
    tcg_gen_movi_i64 T ret 0
  else if is_power_of_2 arg2 then
    tcg_gen_shli_i64 T ret arg1 (ctz 64 arg2)
  else
    let t0 ← tcg_const_i64 T arg2
    tcg_gen_mul_i64 T fuel ret arg1 t0
    tcg_temp_free_i64 t0

def tcg_gen_muls2_i32 (T : TCGTarget) (fuel : Nat) (rl rh arg1 arg2 : TCGv_i32) :
    Gen Unit := do
  if T.TCG_TARGET_HAS_muls2_i32 then
    tcg_gen_op4 .muls2_i32 rl rh arg1 arg2
  else if T.TCG_TARGET_HAS_mulsh_i32 then
    let t ← tcg_temp_new_i32
    tcg_gen_op3 .mul_i32 t arg1 arg2
    tcg_gen_op3 .mulsh_i32 rh arg1 arg2
    tcg_gen_mov_i32 rl t
    tcg_temp_free_i32 t
  else if ¬ T.reg64 then
    let t0 ← tcg_temp_new_i32
    let t1 ← tcg_temp_new_i32
    let t2 ← tcg_temp_new_i32
    let t3 ← tcg_temp_new_i32
    tcg_gen_mulu2_i32 T fuel t0 t1 arg1 arg2
    tcg_gen_sari_i32 t2 arg1 31
    tcg_gen_sari_i32 t3 arg2 31
    tcg_gen_and_i32 t2 t2 arg2
    tcg_gen_and_i32 t3 t3 arg1
    tcg_gen_sub_i32 rh t1 t2
    tcg_gen_sub_i32 rh rh t3
    tcg_gen_mov_i32 rl t0
    tcg_temp_free_i32 t0
    tcg_temp_free_i32 t1
    tcg_temp_free_i32 t2
    tcg_temp_free_i32 t3
  else
    let t0 ← tcg_temp_new_i64 T
    let t1 ← tcg_temp_new_i64 T
    tcg_gen_ext_i32_i64 T t0 arg1
    tcg_gen_ext_i32_i64 T t1 arg2
    tcg_gen_mul_i64 T fuel t0 t0 t1
    tcg_gen_extr_i64_i32 T rl rh t0
    tcg_temp_free_i64 t0
    tcg_temp_free_i64 t1

def tcg_gen_add2_i64 (T : TCGTarget) (rl rh al ah bl bh : TCGv_i64) : Gen Unit := do
  if T.TCG_TARGET_HAS_add2_i64 then
    tcg_gen_op6 .add2_i64 rl rh al ah bl bh
  else
    let t0 ← tcg_temp_new_i64 T
    let t1 ← tcg_temp_new_i64 T
    tcg_gen_add_i64 T t0 al bl
    tcg_gen_setcond_i64 T .LTU t1 t0 al
    tcg_gen_add_i64 T rh ah bh
    tcg_gen_add_i64 T rh rh t1
    tcg_gen_mov_i64 T rl t0
    tcg_temp_free_i64 t0
    tcg_temp_free_i64 t1

def tcg_gen_sub2_i64 (T : TCGTarget) (rl rh al ah bl bh : TCGv_i64) : Gen Unit := do
  if T.TCG_TARGET_HAS_sub2_i64 then
    tcg_gen_op6 .sub2_i64 rl rh al ah bl bh
  else
    let t0 ← tcg_temp_new_i64 T
    let t1 ← tcg_temp_new_i64 T
    tcg_gen_sub_i64 T t0 al bl
    tcg_gen_setcond_i64 T .LTU t1 al bl
    tcg_gen_sub_i64 T rh ah bh
    tcg_gen_sub_i64 T rh rh t1
    tcg_gen_mov_i64 T rl t0
    tcg_temp_free_i64 t0
    tcg_temp_free_i64 t1

def tcg_gen_mulu2_i64 (T : TCGTarget) (fuel : Nat) (rl rh arg1 arg2 : TCGv_i64) :
    Gen Unit := do
  if T.TCG_TARGET_HAS_mulu2_i64 then
    tcg_gen_op4 .mulu2_i64 rl rh arg1 arg2
  else if T.TCG_TARGET_HAS_muluh_i64 then
    let t ← tcg_temp_new_i64 T
    tcg_gen_op3 .mul_i64 t arg1 arg2
    tcg_gen_op3 .muluh_i64 rh arg1 arg2
    tcg_gen_mov_i64 T rl t
    tcg_temp_free_i64 t
  else
    let t0 ← tcg_temp_new_i64 T
    tcg_gen_mul_i64 T fuel t0 arg1 arg2
    gen_helper_i64 T .muluh_i64 rh arg1 arg2
    tcg_gen_mov_i64 T rl t0
    tcg_temp_free_i64 t0

def tcg_gen_muls2_i64 (T : TCGTarget) (fuel : Nat) (rl rh arg1 arg2 : TCGv_i64) :
    Gen Unit := do
  if T.TCG_TARGET_HAS_muls2_i64 then
    tcg_gen_op4 .muls2_i64 rl rh arg1 arg2
  else if T.TCG_TARGET_HAS_mulsh_i64 then
    let t ← tcg_temp_new_i64 T
    tcg_gen_op3 .mul_i64 t arg1 arg2
    tcg_gen_op3 .mulsh_i64 rh arg1 arg2
    tcg_gen_mov_i64 T rl t
    tcg_temp_free_i64 t
  else if T.TCG_TARGET_HAS_mulu2_i64 ∨ T.TCG_TARGET_HAS_muluh_i64 then
    let t0 ← tcg_temp_new_i64 T
    let t1 ← tcg_temp_new_i64 T
    let t2 ← tcg_temp_new_i64 T
    let t3 ← tcg_temp_new_i64 T
    tcg_gen_mulu2_i64 T fuel t0 t1 arg1 arg2
    tcg_gen_sari_i64 T t2 arg1 63
    tcg_gen_sari_i64 T t3 arg2 63
    tcg_gen_and_i64 T t2 t2 arg2
    tcg_gen_and_i64 T t3 t3 arg1
    tcg_gen_sub_i64 T rh t1 t2
    tcg_gen_sub_i64 T rh rh t3
    tcg_gen_mov_i64 T rl t0
    tcg_temp_free_i64 t0
    tcg_temp_free_i64 t1
    tcg_temp_free_i64 t2
    tcg_temp_free_i64 t3
  else
    let t0 ← tcg_temp_new_i64 T
    tcg_gen_mul_i64 T fuel t0 arg1 arg2
    gen_helper_i64 T .mulsh_i64 rh arg1 arg2
    tcg_gen_mov_i64 T rl t0
    tcg_temp_free_i64 t0

/-! ### Memory operations: barriers and `MemOp` canonicalization -/

/-- Modelled from the spec: `CF_PARALLEL` (exec-all.h), the flag of a unit
translated for parallel execution. -/
def CF_PARALLEL : Nat := 0x00080000

/-- Modelled from the spec: `TCG_BAR_SC` (tcg-mo.h). -/
def TCG_BAR_SC : Nat := 0x30

/-- Modelled from the spec: the ordering bits of tcg-mo.h. -/
def TCG_MO_LD_LD : Nat := 0x01
def TCG_MO_ST_LD : Nat := 0x02
def TCG_MO_LD_ST : Nat := 0x04
def TCG_MO_ST_ST : Nat := 0x08

/-- Read the execution-mode flags of the unit (`tcg_ctx->tb_cflags`). -/
def tb_cflags : Gen Nat := fun s => (some s.tb_cflags, s)

def tcg_gen_mb (mb_type : Nat) : Gen Unit := do
  let cflags ← tb_cflags
  if cflags &&& CF_PARALLEL ≠ 0 then
    tcg_gen_op1 .mb mb_type

/-- The mask `type` restricted as `tcg_gen_req_mo` does: to the guest default
ordering when the guest defines one, with the host's guaranteed bits cleared. -/
def req_mo_mask (T : TCGTarget) (type : Nat) : Nat :=
  (match T.TCG_GUEST_DEFAULT_MO with
   | some g => type &&& g
   | none => type) &&& bnot 32 T.TCG_TARGET_DEFAULT_MO

def tcg_gen_req_mo (T : TCGTarget) (type : Nat) : Gen Unit := do
  let type := req_mo_mask T type
  if type ≠ 0 then
    tcg_gen_mb (type ||| TCG_BAR_SC)

/-- Modelled from the spec: `get_alignment_bits` (memop.h), called for its
assertion only. -/
def get_alignment_bits (T : TCGTarget) (op : Nat) : Gen Unit :=
  tcg_debug_assert (T.alignment_valid op)

def tcg_canonicalize_memop (T : TCGTarget) (op : Nat) (is64 st : Bool) : Gen Nat := do
  get_alignment_bits T op
  let op ← (
    if op &&& MO_SIZE = MO_8 then
      pure (op &&& bnot 32 MO_BSWAP)
    else if op &&& MO_SIZE = MO_16 then
      pure op
    else if op &&& MO_SIZE = MO_32 then
      pure (if ¬ is64 then op &&& bnot 32 MO_SIGN else op)
    else if ¬ is64 then
      tcg_abort
    else
      pure op)
  pure (if st then op &&& bnot 32 MO_SIGN else op)

/-! ### Guest memory access entry points -/

/-- A guest address temporary (`TCGv`, `TCGv_cap_checked_ptr`): a 32-bit or a
64-bit temporary according to `TARGET_LONG_BITS`. -/
abbrev TCGv := Nat

def MO_UB : Nat := MO_8
def MO_UW : Nat := MO_16
def MO_UL : Nat := MO_32
def MO_SB : Nat := MO_SIGN ||| MO_8
def MO_SW : Nat := MO_SIGN ||| MO_16
def MO_SL : Nat := MO_SIGN ||| MO_32
def MO_Q : Nat := MO_64

/-- Modelled from the spec: `make_memop_idx` (tcg.h) packs the `MemOp` and the
MMU index into one op argument. -/
def make_memop_idx (memop idx : Nat) : Nat := (memop <<< 4) ||| idx

/-- Modelled from the spec: `tcg_temp_new_cap_checked` (tcg-op.h), a new
temporary of guest-address width. -/
def tcg_temp_new_cap_checked (T : TCGTarget) : Gen TCGv :=
  if T.target_long64 then tcg_temp_new_i64 T else tcg_temp_new_i32

/-- Modelled from the spec: `tcg_gen_mov_tl` (tcg-op.h), a move of
guest-address width. -/
def tcg_gen_mov_tl (T : TCGTarget) (ret arg : TCGv) : Gen Unit :=
  if T.target_long64 then tcg_gen_mov_i64 T ret arg else tcg_gen_mov_i32 ret arg

def gen_ldst_i32 (T : TCGTarget) (opc : TCGOpcode) (val : TCGv_i32) (addr : TCGv)
    (memop idx : Nat) : Gen Unit :=
  let oi := make_memop_idx memop idx
  if ¬ T.target_long64 then
    tcg_gen_op3 opc val addr oi
  else if ¬ T.reg64 then
    tcg_gen_op4 opc val (TCGV_LOW addr) (TCGV_HIGH addr) oi
  else
    tcg_gen_op3 opc val addr oi

def gen_ldst_i64 (T : TCGTarget) (opc : TCGOpcode) (val : TCGv_i64) (addr : TCGv)
    (memop idx : Nat) : Gen Unit :=
  let oi := make_memop_idx memop idx
  if ¬ T.target_long64 then
    if ¬ T.reg64 then
      tcg_gen_op4 opc (TCGV_LOW val) (TCGV_HIGH val) addr oi
    else
      tcg_gen_op3 opc val addr oi
  else if ¬ T.reg64 then
    tcg_gen_op5 opc (TCGV_LOW val) (TCGV_HIGH val) (TCGV_LOW addr) (TCGV_HIGH addr) oi
  else
    tcg_gen_op3 opc val addr oi

/-- Modelled from the spec: the generated trace hook (trace/generated) is not
among the sources; when the event is enabled it calls a run-time helper with the
address and the packed access information. -/
def trace_guest_mem_before_tcg (T : TCGTarget) (addr : TCGv) (info : Nat) : Gen Unit := do
  if T.trace_guest_mem then
    let t ← tcg_const_i32 info
    tcg_gen_callN .trace_guest_mem_before_exec [addr, t]
    tcg_temp_free_i32 t

def plugin_prep_mem_callbacks (T : TCGTarget) (vaddr : TCGv) : Gen TCGv := do
  if T.plugin_insn then
    let temp ← tcg_temp_new_cap_checked T
    tcg_gen_mov_tl T temp vaddr
    pure temp
  else
    pure vaddr

/-- Modelled from the spec: `plugin_gen_empty_mem_callback` (plugin-gen.c), a
placeholder call for the instrumentation plugin. -/
def plugin_gen_empty_mem_callback (addr : TCGv) (info : Nat) : Gen Unit :=
  tcg_gen_callN .plugin_empty_mem_callback [addr, info]

def plugin_gen_mem_callbacks (T : TCGTarget) (vaddr : TCGv) (info : Nat) : Gen Unit := do
  if T.plugin_insn then
    plugin_gen_empty_mem_callback vaddr info

/-- The routine `gen_cheri_invalidate_tags` of tcg-op.c; the index is passed only
under `CHERI_INVALIDATE_RESPECT_IDX`, which is defined for `TARGET_AARCH64`.  The
two wrappers it calls, `gen_helper_cheri_invalidate_tags` and
`gen_helper_cheri_invalidate_tags_mmu_idx` (generated from helper.h), are call
ops. -/
def gen_cheri_invalidate_tags (T : TCGTarget) (out_addr : TCGv) (memop : TCGv_i32)
    (idx : Nat) : Gen Unit := do
  if ¬ T.TARGET_AARCH64 then
    tcg_gen_callN .cheri_invalidate_tags [out_addr, memop]
  else
    let tcg_idx ← tcg_const_i32 idx
    tcg_gen_callN .cheri_invalidate_tags_mmu_idx [out_addr, memop, tcg_idx]
    tcg_temp_free_i32 tcg_idx

/-- Modelled from the spec: `gen_cheri_break_loadlink` (target code), which
breaks a pending load-linked reservation through a run-time call. -/
def gen_cheri_break_loadlink (addr : TCGv) (op : TCGv_i32) : Gen Unit :=
  tcg_gen_callN .cheri_break_loadlink [addr, op]

/-- The memory-trace fields written by the `gen_rvfi_dii_set_field*` hooks. -/
inductive RvfiField
  | mem_addr | mem_rdata | mem_rmask | mem_wdata | mem_wmask
  deriving DecidableEq, Repr

def memop_rvfi_mask (op : Nat) : Nat := 2 ^ (2 ^ (op &&& MO_SIZE)) - 1

/-- Modelled from the spec: `gen_rvfi_dii_set_field` and its `zext` variants
(target/riscv) record a temporary in the trace packet; they are no-ops unless
both `TARGET_RISCV` and `CONFIG_RVFI_DII` are defined. -/
def gen_rvfi_dii_set_field (T : TCGTarget) (field : RvfiField) (arg : Nat) : Gen Unit := do
  if T.TARGET_RISCV ∧ T.CONFIG_RVFI_DII then
    tcg_gen_callN .rvfi_dii_set_field [field.toCtorIdx, arg]

/-- Modelled from the spec: `gen_rvfi_dii_set_field_const_i32` (target/riscv)
records a constant in the trace packet. -/
def gen_rvfi_dii_set_field_const_i32 (T : TCGTarget) (field : RvfiField) (c : Nat) :
    Gen Unit := do
  if T.TARGET_RISCV ∧ T.CONFIG_RVFI_DII then
    tcg_gen_callN .rvfi_dii_set_field_const [field.toCtorIdx, c]

def tcg_gen_qemu_ld_i32_with_checked_addr (T : TCGTarget) (val : TCGv_i32) (addr : TCGv)
    (idx memop : Nat) : Gen Unit := do
  let info := T.trace_mem_get_info memop idx false
  tcg_gen_req_mo T (TCG_MO_LD_LD ||| TCG_MO_ST_LD)
  let memop ← tcg_canonicalize_memop T memop false false
  trace_guest_mem_before_tcg T addr info
  let orig_memop := memop
  let memop :=
    if ¬ T.TCG_TARGET_HAS_MEMORY_BSWAP ∧ memop &&& MO_BSWAP ≠ 0 then
      let memop := memop &&& bnot 32 MO_BSWAP
      if memop &&& MO_SSIZE = MO_SW then memop &&& bnot 32 MO_SIGN else memop
    else memop
  let addr ← plugin_prep_mem_callbacks T addr
  let saved_load_addr ← (
    if T.CONFIG_TCG_LOG_INSTR then
      if addr = val then do
        let saved ← tcg_temp_new_cap_checked T
        tcg_gen_mov_tl T saved addr
        pure saved
      else pure addr
    else pure addr)
  gen_rvfi_dii_set_field T .mem_addr addr
  gen_ldst_i32 T .qemu_ld_i32 val addr memop idx
  gen_rvfi_dii_set_field T .mem_rdata val
  gen_rvfi_dii_set_field_const_i32 T .mem_rmask (memop_rvfi_mask memop)
  plugin_gen_mem_callbacks T addr info
  if (orig_memop ^^^ memop) &&& MO_BSWAP ≠ 0 then
    if orig_memop &&& MO_SIZE = MO_16 then
      tcg_gen_bswap16_i32 T val val
      if orig_memop &&& MO_SIGN ≠ 0 then
        tcg_gen_ext16s_i32 T val val
    else if orig_memop &&& MO_SIZE = MO_32 then
      tcg_gen_bswap32_i32 T val val
    else
      tcg_abort
  if T.CONFIG_TCG_LOG_INSTR then
    let tcop ← tcg_const_i32 memop
    if T.tcg_ctx_logging_enabled then
      tcg_gen_callN .qemu_log_instr_load32 [saved_load_addr, val, tcop]
    tcg_temp_free_i32 tcop

def handle_conditional_invalidate (T : TCGTarget) (checked_addr : TCGv) (memop : Nat)
    (store_happens : TCGv_i32) : Gen Unit := do
  if T.TARGET_MIPS ∨ T.TARGET_RISCV ∨ T.TARGET_CHERI then
    let op ← tcg_const_i32 memop
    if T.TARGET_CHERI then
      tcg_gen_callN .cheri_invalidate_tags_condition [checked_addr, op, store_happens]
    if T.TARGET_MIPS ∨ T.TARGET_RISCV then
      gen_cheri_break_loadlink checked_addr op
    tcg_temp_free_i32 op

def tcg_gen_qemu_st_i32_with_checked_addr_cond_invalidate (T : TCGTarget) (val : TCGv_i32)
    (addr : TCGv) (idx memop : Nat) (invalidate : Bool) : Gen Unit := do
  let info := T.trace_mem_get_info memop idx true
  tcg_gen_req_mo T (TCG_MO_LD_ST ||| TCG_MO_ST_ST)
  let memop ← tcg_canonicalize_memop T memop false true
  trace_guest_mem_before_tcg T addr info
  let (val, memop) ← (
    if ¬ T.TCG_TARGET_HAS_MEMORY_BSWAP ∧ memop &&& MO_BSWAP ≠ 0 then do
      let swap ← tcg_temp_new_i32
      if memop &&& MO_SIZE = MO_16 then
        tcg_gen_ext16u_i32 T swap val
        tcg_gen_bswap16_i32 T swap swap
      else if memop &&& MO_SIZE = MO_32 then
        tcg_gen_bswap32_i32 T swap val
      else
        tcg_abort
      pure (swap, memop &&& bnot 32 MO_BSWAP)
    else pure (val, memop))
  let addr ← plugin_prep_mem_callbacks T addr
  gen_rvfi_dii_set_field T .mem_addr addr
  gen_rvfi_dii_set_field T .mem_wdata val
  gen_ldst_i32 T .qemu_st_i32 val addr memop idx
  gen_rvfi_dii_set_field_const_i32 T .mem_wmask (memop_rvfi_mask memop)
  plugin_gen_mem_callbacks T addr info
  if T.TARGET_MIPS ∨ T.TARGET_RISCV ∨ T.CONFIG_TCG_LOG_INSTR ∨ T.TARGET_CHERI then
    let tcop ← tcg_const_i32 memop
    if T.CONFIG_TCG_LOG_INSTR ∧ T.tcg_ctx_logging_enabled then
      tcg_gen_callN .qemu_log_instr_store32 [addr, val, tcop]
    if T.TARGET_CHERI ∧ invalidate then
      gen_cheri_invalidate_tags T addr tcop idx
    if (T.TARGET_MIPS ∨ T.TARGET_RISCV) ∧ invalidate then
      gen_cheri_break_loadlink addr tcop
    tcg_temp_free_i32 tcop

def tcg_gen_qemu_st_i32_with_checked_addr (T : TCGTarget) (val : TCGv_i32) (addr : TCGv)
    (idx memop : Nat) : Gen Unit :=
  tcg_gen_qemu_st_i32_with_checked_addr_cond_invalidate T val addr idx memop true

def tcg_gen_qemu_ld_i64_with_checked_addr (T : TCGTarget) (val : TCGv_i64) (addr : TCGv)
    (idx memop : Nat) : Gen Unit := do
  if ¬ T.reg64 ∧ memop &&& MO_SIZE < MO_64 then
    tcg_gen_qemu_ld_i32_with_checked_addr T (TCGV_LOW val) addr idx memop
    if memop &&& MO_SIGN ≠ 0 then
      tcg_gen_sari_i32 (TCGV_HIGH val) (TCGV_LOW val) 31
    else
      tcg_gen_movi_i32 (TCGV_HIGH val) 0
  else
    tcg_gen_req_mo T (TCG_MO_LD_LD ||| TCG_MO_ST_LD)
    let memop ← tcg_canonicalize_memop T memop true false
    let info := T.trace_mem_get_info memop idx false
    trace_guest_mem_before_tcg T addr info
    let orig_memop := memop
    let memop :=
      if ¬ T.TCG_TARGET_HAS_MEMORY_BSWAP ∧ memop &&& MO_BSWAP ≠ 0 then
        let memop := memop &&& bnot 32 MO_BSWAP
        if memop &&& MO_SIGN ≠ 0 ∧ memop &&& MO_SIZE < MO_64 then memop &&& bnot 32 MO_SIGN
        else memop
      else memop
    let addr ← plugin_prep_mem_callbacks T addr
    let saved_load_addr ← (
      if T.CONFIG_TCG_LOG_INSTR then
        if addr = val then do
          let saved ← tcg_temp_new_cap_checked T
          tcg_gen_mov_tl T saved addr
          pure saved
        else pure addr
      else pure addr)
    gen_rvfi_dii_set_field T .mem_addr addr
    gen_ldst_i64 T .qemu_ld_i64 val addr memop idx
    gen_rvfi_dii_set_field T .mem_rdata val
    gen_rvfi_dii_set_field_const_i32 T .mem_rmask (memop_rvfi_mask memop)
    plugin_gen_mem_callbacks T addr info
    if (orig_memop ^^^ memop) &&& MO_BSWAP ≠ 0 then
      if orig_memop &&& MO_SIZE = MO_16 then
        tcg_gen_bswap16_i64 T val val
        if orig_memop &&& MO_SIGN ≠ 0 then
          tcg_gen_ext16s_i64 T val val
      else if orig_memop &&& MO_SIZE = MO_32 then
        tcg_gen_bswap32_i64 T val val
        if orig_memop &&& MO_SIGN ≠ 0 then
          tcg_gen_ext32s_i64 T val val
      else if orig_memop &&& MO_SIZE = MO_64 then
        tcg_gen_bswap64_i64 T val val
      else
        tcg_abort
    if T.CONFIG_TCG_LOG_INSTR then
      let tcop ← tcg_const_i32 memop
      if T.tcg_ctx_logging_enabled then
        tcg_gen_callN .qemu_log_instr_load64 [saved_load_addr, val, tcop]
      tcg_temp_free_i32 tcop

def tcg_gen_qemu_st_i64_with_checked_addr_cond_invalidate (T : TCGTarget) (val : TCGv_i64)
    (addr : TCGv) (idx memop : Nat) (invalidate : Bool) : Gen Unit := do
  if ¬ T.reg64 ∧ memop &&& MO_SIZE < MO_64 then
    tcg_gen_qemu_st_i32_with_checked_addr_cond_invalidate T (TCGV_LOW val) addr idx memop
      invalidate
  else
    tcg_gen_req_mo T (TCG_MO_LD_ST ||| TCG_MO_ST_ST)
    let memop ← tcg_canonicalize_memop T memop true true
    let info := T.trace_mem_get_info memop idx true
    trace_guest_mem_before_tcg T addr info
    let (val, memop) ← (
      if ¬ T.TCG_TARGET_HAS_MEMORY_BSWAP ∧ memop &&& MO_BSWAP ≠ 0 then do
        let swap ← tcg_temp_new_i64 T
        if memop &&& MO_SIZE = MO_16 then
          tcg_gen_ext16u_i64 T swap val
          tcg_gen_bswap16_i64 T swap swap
        else if memop &&& MO_SIZE = MO_32 then
          tcg_gen_ext32u_i64 T swap val
          tcg_gen_bswap32_i64 T swap swap
        else if memop &&& MO_SIZE = MO_64 then
          tcg_gen_bswap64_i64 T swap val
        else
          tcg_abort
        pure (swap, memop &&& bnot 32 MO_BSWAP)
      else pure (val, memop))
    let addr ← plugin_prep_mem_callbacks T addr
    gen_rvfi_dii_set_field T .mem_addr addr
    gen_rvfi_dii_set_field T .mem_wdata val
    gen_ldst_i64 T .qemu_st_i64 val addr memop idx
    gen_rvfi_dii_set_field_const_i32 T .mem_wmask (memop_rvfi_mask memop)
    plugin_gen_mem_callbacks T addr info
    if T.TARGET_MIPS ∨ T.TARGET_RISCV ∨ T.CONFIG_TCG_LOG_INSTR ∨ T.TARGET_CHERI then
      let tcop ← tcg_const_i32 memop
      if T.CONFIG_TCG_LOG_INSTR ∧ T.tcg_ctx_logging_enabled then
        tcg_gen_callN .qemu_log_instr_store64 [addr, val, tcop]
      if T.TARGET_CHERI ∧ invalidate then
        gen_cheri_invalidate_tags T addr tcop idx
      if (T.TARGET_MIPS ∨ T.TARGET_RISCV) ∧ invalidate then
        gen_cheri_break_loadlink addr tcop
      tcg_temp_free_i32 tcop

def tcg_gen_qemu_st_i64_with_checked_addr (T : TCGTarget) (val : TCGv_i64) (addr : TCGv)
    (idx memop : Nat) : Gen Unit :=
  tcg_gen_qemu_st_i64_with_checked_addr_cond_invalidate T val addr idx memop true

/-! ### Atomic read-modify-write lowering -/

def tcg_gen_ext_i32 (T : TCGTarget) (ret val : TCGv_i32) (opc : Nat) : Gen Unit :=
  if opc &&& MO_SSIZE = MO_SB then
    tcg_gen_ext8s_i32 T ret val
  else if opc &&& MO_SSIZE = MO_UB then
    tcg_gen_ext8u_i32 T ret val
  else if opc &&& MO_SSIZE = MO_SW then
    tcg_gen_ext16s_i32 T ret val
  else if opc &&& MO_SSIZE = MO_UW then
    tcg_gen_ext16u_i32 T ret val
  else
    tcg_gen_mov_i32 ret val

def tcg_gen_ext_i64 (T : TCGTarget) (ret val : TCGv_i64) (opc : Nat) : Gen Unit :=
  if opc &&& MO_SSIZE = MO_SB then
    tcg_gen_ext8s_i64 T ret val
  else if opc &&& MO_SSIZE = MO_UB then
    tcg_gen_ext8u_i64 T ret val
  else if opc &&& MO_SSIZE = MO_SW then
    tcg_gen_ext16s_i64 T ret val
  else if opc &&& MO_SSIZE = MO_UW then
    tcg_gen_ext16u_i64 T ret val
  else if opc &&& MO_SSIZE = MO_SL then
    tcg_gen_ext32s_i64 T ret val
  else if opc &&& MO_SSIZE = MO_UL then
    tcg_gen_ext32u_i64 T ret val
  else
    tcg_gen_mov_i64 T ret val

/-- The call arguments of a guest address: a low/high pair for a 64-bit guest on
a 32-bit host. -/
def tl_args (T : TCGTarget) (addr : TCGv) : List TCGArg :=
  if T.target_long64 ∧ ¬ T.reg64 then [TCGV_LOW addr, TCGV_HIGH addr] else [addr]

/-- The call arguments of a 64-bit value: a low/high pair on a 32-bit host. -/
def i64_args (T : TCGTarget) (v : TCGv_i64) : List TCGArg :=
  if T.reg64 then [v] else [TCGV_LOW v, TCGV_HIGH v]

/-- Modelled from the spec: an entry of an atomic dispatch table, "a named
runtime atomic routine": its family and its table key (access size and byte
order). -/
abbrev AtomicRoutine := Helper × Nat

/-- Modelled from the spec: the `gen_helper_atomic_*` wrappers for 8-, 16- and
32-bit accesses (generated from helper.h), taking 32-bit values. -/
def gen_helper_atomic_i32 (T : TCGTarget) (gen : AtomicRoutine) (ret : TCGv_i32) (addr : TCGv)
    (vals : List TCGv_i32) (oi : List TCGArg) : Gen Unit :=
  tcg_gen_callN gen.1 ([gen.2, 1, (tl_args T addr).length, ret] ++ tl_args T addr ++ vals ++ oi)

/-- Modelled from the spec: the `gen_helper_atomic_*q_*` wrappers for 64-bit
accesses (generated from helper.h), taking 64-bit values. -/
def gen_helper_atomic_i64 (T : TCGTarget) (gen : AtomicRoutine) (ret : TCGv_i64) (addr : TCGv)
    (vals : List TCGv_i64) (oi : List TCGArg) : Gen Unit :=
  tcg_gen_callN gen.1 ([gen.2, T.w64, (tl_args T addr).length] ++ i64_args T ret ++
    tl_args T addr ++ (vals.map (i64_args T)).flatten ++ oi)

/-- Modelled from the spec: `gen_helper_exit_atomic` (generated from helper.h),
the call that makes the generated code leave and be re-executed under the
sequential strategy. -/
def gen_helper_exit_atomic : Gen Unit :=
  tcg_gen_callN .exit_atomic []

/-- The dispatch table of one family (`table_cmpxchg`, `table_##NAME`): entries
for 8, 16 and 32 bits in both byte orders, and for 64 bits under
`CONFIG_ATOMIC64`; every other entry is `NULL`. -/
def atomic_table (T : TCGTarget) (h : Helper) (i : Nat) : Option AtomicRoutine :=
  if i = MO_8 ∨ i = MO_16 ∨ i = (MO_16 ||| MO_BSWAP) ∨ i = MO_32 ∨ i = (MO_32 ||| MO_BSWAP) then
    some (h, i)
  else if T.CONFIG_ATOMIC64 ∧ (i = MO_64 ∨ i = (MO_64 ||| MO_BSWAP)) then
    some (h, i)
  else
    none

def table_cmpxchg (T : TCGTarget) : Nat → Option AtomicRoutine :=
  atomic_table T .atomic_cmpxchg

def tcg_gen_atomic_cmpxchg_i32_with_checked_addr (T : TCGTarget) (retv : TCGv_i32)
    (checked_addr : TCGv) (cmpv newv : TCGv_i32) (idx memop : Nat) : Gen Unit := do
  let memop ← tcg_canonicalize_memop T memop false false
  let cflags ← tb_cflags
  if cflags &&& CF_PARALLEL = 0 then
    let t1 ← tcg_temp_new_i32
    let t2 ← tcg_temp_new_i32
    tcg_gen_ext_i32 T t2 cmpv (memop &&& MO_SIZE)
    tcg_gen_qemu_ld_i32_with_checked_addr T t1 checked_addr idx (memop &&& bnot 32 MO_SIGN)
    let equal ← (
      if T.TARGET_CHERI then do
        let equal ← tcg_temp_new_i32
        tcg_gen_setcond_i32 .EQ equal t1 t2
        pure equal
      else pure 0)
    handle_conditional_invalidate T checked_addr memop equal
    if T.TARGET_CHERI then
      tcg_temp_free_i32 equal
    tcg_gen_movcond_i32 T .EQ t2 t1 t2 newv t1
    tcg_gen_qemu_st_i32_with_checked_addr_cond_invalidate T t2 checked_addr idx memop false
    tcg_temp_free_i32 t2
    if memop &&& MO_SIGN ≠ 0 then
      tcg_gen_ext_i32 T retv t1 memop
    else
      tcg_gen_mov_i32 retv t1
    tcg_temp_free_i32 t1
  else
    tcg_debug_assert T.ASSERT_IF_CHERI
    match table_cmpxchg T (memop &&& (MO_SIZE ||| MO_BSWAP)) with
    | none => tcg_abort
    | some gen =>
      if T.CONFIG_SOFTMMU then
        let oi ← tcg_const_i32 (make_memop_idx (memop &&& bnot 32 MO_SIGN) idx)
        gen_helper_atomic_i32 T gen retv checked_addr [cmpv, newv] [oi]
        tcg_temp_free_i32 oi
      else
        gen_helper_atomic_i32 T gen retv checked_addr [cmpv, newv] []
      if memop &&& MO_SIGN ≠ 0 then
        tcg_gen_ext_i32 T retv retv memop

def tcg_gen_atomic_cmpxchg_i64_with_checked_addr (T : TCGTarget) (retv : TCGv_i64)
    (checked_addr : TCGv) (cmpv newv : TCGv_i64) (idx memop : Nat) : Gen Unit := do
  let memop ← tcg_canonicalize_memop T memop true false
  let cflags ← tb_cflags
  if cflags &&& CF_PARALLEL = 0 then
    let t1 ← tcg_temp_new_i64 T
    let t2 ← tcg_temp_new_i64 T
    tcg_gen_ext_i64 T t2 cmpv (memop &&& MO_SIZE)
    tcg_gen_qemu_ld_i64_with_checked_addr T t1 checked_addr idx (memop &&& bnot 32 MO_SIGN)
    let equal ← (
      if T.TARGET_CHERI then do
        let equal ← tcg_temp_new_i32
        let equal64 ← tcg_temp_new_i64 T
        tcg_gen_setcond_i64 T .EQ equal64 t1 t2
        tcg_gen_extrl_i64_i32 T equal equal64
        tcg_temp_free_i64 equal64
        pure equal
      else pure 0)
    handle_conditional_invalidate T checked_addr memop equal
    if T.TARGET_CHERI then
      tcg_temp_free_i32 equal
    tcg_gen_movcond_i64 T .EQ t2 t1 t2 newv t1
    tcg_gen_qemu_st_i64_with_checked_addr_cond_invalidate T t2 checked_addr idx memop false
    tcg_temp_free_i64 t2
    if memop &&& MO_SIGN ≠ 0 then
      tcg_gen_ext_i64 T retv t1 memop
    else
      tcg_gen_mov_i64 T retv t1
    tcg_temp_free_i64 t1
  else if memop &&& MO_SIZE = MO_64 then
    tcg_debug_assert T.ASSERT_IF_CHERI
    if T.CONFIG_ATOMIC64 then
      match table_cmpxchg T (memop &&& (MO_SIZE ||| MO_BSWAP)) with
      | none => tcg_abort
      | some gen =>
        if T.CONFIG_SOFTMMU then
          let oi ← tcg_const_i32 (make_memop_idx memop idx)
          gen_helper_atomic_i64 T gen retv checked_addr [cmpv, newv] [oi]
          tcg_temp_free_i32 oi
        else
          gen_helper_atomic_i64 T gen retv checked_addr [cmpv, newv] []
    else
      gen_helper_exit_atomic
      tcg_gen_movi_i64 T retv 0
  else
    tcg_debug_assert T.ASSERT_IF_CHERI
    let c32 ← tcg_temp_new_i32
    let n32 ← tcg_temp_new_i32
    let r32 ← tcg_temp_new_i32
    tcg_gen_extrl_i64_i32 T c32 cmpv
    tcg_gen_extrl_i64_i32 T n32 newv
    tcg_gen_atomic_cmpxchg_i32_with_checked_addr T r32 checked_addr c32 n32 idx
      (memop &&& bnot 32 MO_SIGN)
    tcg_temp_free_i32 c32
    tcg_temp_free_i32 n32
    tcg_gen_extu_i32_i64 T retv r32
    tcg_temp_free_i32 r32
    if memop &&& MO_SIGN ≠ 0 then
      tcg_gen_ext_i64 T retv retv memop

inductive GEN_OP_SIGN
  | GEN_OP_SIGNED | GEN_OP_UNSIGNED | GEN_OP_NO_SIGN
  deriving DecidableEq, Repr

def get_memop_for_operation (base_memop : Nat) (gen_sign : GEN_OP_SIGN) : Nat :=
  if base_memop &&& MO_SIZE = MO_Q ∨ gen_sign = .GEN_OP_NO_SIGN then
    base_memop
  else if gen_sign = .GEN_OP_SIGNED then
    base_memop ||| MO_SIGN
  else
    base_memop &&& bnot 32 MO_SIGN

def do_nonatomic_op_i32 (T : TCGTarget) (ret : TCGv_i32) (checked_addr : TCGv)
    (val : TCGv_i32) (idx memop : Nat) (new_val : Bool)
    (gen : TCGv_i32 → TCGv_i32 → TCGv_i32 → Gen Unit) (gen_sign : GEN_OP_SIGN) : Gen Unit := do
  let t1 ← tcg_temp_new_i32
  let t2 ← tcg_temp_new_i32
  let memop ← tcg_canonicalize_memop T memop false false
  let tempop := get_memop_for_operation memop gen_sign
  tcg_gen_qemu_ld_i32_with_checked_addr T t1 checked_addr idx tempop
  tcg_gen_ext_i32 T t2 val tempop
  gen t2 t1 t2
  tcg_gen_qemu_st_i32_with_checked_addr T t2 checked_addr idx memop
  tcg_gen_ext_i32 T ret (if new_val then t2 else t1) memop
  tcg_temp_free_i32 t1
  tcg_temp_free_i32 t2

def do_atomic_op_i32 (T : TCGTarget) (ret : TCGv_i32) (checked_addr : TCGv) (val : TCGv_i32)
    (idx memop : Nat) (table : Nat → Option AtomicRoutine) : Gen Unit := do
  tcg_debug_assert T.ASSERT_IF_CHERI
  let memop ← tcg_canonicalize_memop T memop false false
  match table (memop &&& (MO_SIZE ||| MO_BSWAP)) with
  | none => tcg_abort
  | some gen =>
    if T.CONFIG_SOFTMMU then
      let oi ← tcg_const_i32 (make_memop_idx (memop &&& bnot 32 MO_SIGN) idx)
      gen_helper_atomic_i32 T gen ret checked_addr [val] [oi]
      tcg_temp_free_i32 oi
    else
      gen_helper_atomic_i32 T gen ret checked_addr [val] []
    if T.TARGET_MIPS ∨ T.TARGET_RISCV ∨ T.TARGET_CHERI then
      let op ← tcg_const_i32 memop
      if T.TARGET_CHERI then
        gen_cheri_invalidate_tags T checked_addr op idx
      if T.TARGET_MIPS ∨ T.TARGET_RISCV then
        gen_cheri_break_loadlink checked_addr op
      tcg_temp_free_i32 op
    if memop &&& MO_SIGN ≠ 0 then
      tcg_gen_ext_i32 T ret ret memop

def do_nonatomic_op_i64 (T : TCGTarget) (ret : TCGv_i64) (checked_addr : TCGv)
    (val : TCGv_i64) (idx memop : Nat) (new_val : Bool)
    (gen : TCGv_i64 → TCGv_i64 → TCGv_i64 → Gen Unit) (gen_sign : GEN_OP_SIGN) : Gen Unit := do
  let t1 ← tcg_temp_new_i64 T
  let t2 ← tcg_temp_new_i64 T
  let memop ← tcg_canonicalize_memop T memop true false
  let tempop := get_memop_for_operation memop gen_sign
  tcg_gen_qemu_ld_i64_with_checked_addr T t1 checked_addr idx tempop
  tcg_gen_ext_i64 T t2 val tempop
  gen t2 t1 t2
  tcg_gen_qemu_st_i64_with_checked_addr T t2 checked_addr idx memop
  tcg_gen_ext_i64 T ret (if new_val then t2 else t1) memop
  tcg_temp_free_i64 t1
  tcg_temp_free_i64 t2

def do_atomic_op_i64 (T : TCGTarget) (ret : TCGv_i64) (checked_addr : TCGv) (val : TCGv_i64)
    (idx memop : Nat) (table : Nat → Option AtomicRoutine) : Gen Unit := do
  tcg_debug_assert T.ASSERT_IF_CHERI
  let memop ← tcg_canonicalize_memop T memop true false
  if memop &&& MO_SIZE = MO_64 then
    if T.CONFIG_ATOMIC64 then
      match table (memop &&& (MO_SIZE ||| MO_BSWAP)) with
      | none => tcg_abort
      | some gen =>
        if T.CONFIG_SOFTMMU then
          let oi ← tcg_const_i32 (make_memop_idx (memop &&& bnot 32 MO_SIGN) idx)
          gen_helper_atomic_i64 T gen ret checked_addr [val] [oi]
          tcg_temp_free_i32 oi
        else
          gen_helper_atomic_i64 T gen ret checked_addr [val] []
    else
      gen_helper_exit_atomic
      tcg_gen_movi_i64 T ret 0
  else
    let v32 ← tcg_temp_new_i32
    let r32 ← tcg_temp_new_i32
    tcg_gen_extrl_i64_i32 T v32 val
    do_atomic_op_i32 T r32 checked_addr v32 idx (memop &&& bnot 32 MO_SIGN) table
    tcg_temp_free_i32 v32
    tcg_gen_extu_i32_i64 T ret r32
    tcg_temp_free_i32 r32
    if memop &&& MO_SIGN ≠ 0 then
      tcg_gen_ext_i64 T ret ret memop
  if T.TARGET_MIPS ∨ T.TARGET_RISCV ∨ T.TARGET_CHERI then
    let op ← tcg_const_i32 memop
    if T.TARGET_CHERI then
      gen_cheri_invalidate_tags T checked_addr op idx
    if T.TARGET_MIPS ∨ T.TARGET_RISCV then
      gen_cheri_break_loadlink checked_addr op
    tcg_temp_free_i32 op

def tcg_gen_mov2_i32 (r _a b : TCGv_i32) : Gen Unit :=
  tcg_gen_mov_i32 r b

def tcg_gen_mov2_i64 (T : TCGTarget) (r _a b : TCGv_i64) : Gen Unit :=
  tcg_gen_mov_i64 T r b

/-- The `NAME` argument of the `GEN_ATOMIC_HELPER` instantiations. -/
inductive AtomicName
  | fetch_add | fetch_and | fetch_or | fetch_xor
  | fetch_smin | fetch_umin | fetch_smax | fetch_umax
  | add_fetch | and_fetch | or_fetch | xor_fetch
  | smin_fetch | umin_fetch | smax_fetch | umax_fetch
  | xchg
  deriving DecidableEq, Repr

/-- The runtime family `gen_helper_atomic_##NAME` of an instantiation. -/
def AtomicName.helper : AtomicName → Helper
  | .fetch_add => .atomic_fetch_add | .fetch_and => .atomic_fetch_and
  | .fetch_or => .atomic_fetch_or | .fetch_xor => .atomic_fetch_xor
  | .fetch_smin => .atomic_fetch_smin | .fetch_umin => .atomic_fetch_umin
  | .fetch_smax => .atomic_fetch_smax | .fetch_umax => .atomic_fetch_umax
  | .add_fetch => .atomic_add_fetch | .and_fetch => .atomic_and_fetch
  | .or_fetch => .atomic_or_fetch | .xor_fetch => .atomic_xor_fetch
  | .smin_fetch => .atomic_smin_fetch | .umin_fetch => .atomic_umin_fetch
  | .smax_fetch => .atomic_smax_fetch | .umax_fetch => .atomic_umax_fetch
  | .xchg => .atomic_xchg

/-- The `OP` argument at 32 bits: `tcg_gen_##OP##_i32`. -/
def AtomicName.OP_i32 (T : TCGTarget) : AtomicName → TCGv_i32 → TCGv_i32 → TCGv_i32 → Gen Unit
  | .fetch_add | .add_fetch => tcg_gen_add_i32
  | .fetch_and | .and_fetch => tcg_gen_and_i32
  | .fetch_or | .or_fetch => tcg_gen_or_i32
  | .fetch_xor | .xor_fetch => tcg_gen_xor_i32
  | .fetch_smin | .smin_fetch => tcg_gen_smin_i32 T
  | .fetch_umin | .umin_fetch => tcg_gen_umin_i32 T
  | .fetch_smax | .smax_fetch => tcg_gen_smax_i32 T
  | .fetch_umax | .umax_fetch => tcg_gen_umax_i32 T
  | .xchg => tcg_gen_mov2_i32

/-- The `OP` argument at 64 bits: `tcg_gen_##OP##_i64`. -/
def AtomicName.OP_i64 (T : TCGTarget) : AtomicName → TCGv_i64 → TCGv_i64 → TCGv_i64 → Gen Unit
  | .fetch_add | .add_fetch => tcg_gen_add_i64 T
  | .fetch_and | .and_fetch => tcg_gen_and_i64 T
  | .fetch_or | .or_fetch => tcg_gen_or_i64 T
  | .fetch_xor | .xor_fetch => tcg_gen_xor_i64 T
  | .fetch_smin | .smin_fetch => tcg_gen_smin_i64 T
  | .fetch_umin | .umin_fetch => tcg_gen_umin_i64 T
  | .fetch_smax | .smax_fetch => tcg_gen_smax_i64 T
  | .fetch_umax | .umax_fetch => tcg_gen_umax_i64 T
  | .xchg => tcg_gen_mov2_i64 T

/-- The `NEW` argument: whether the routine returns the new value. -/
def AtomicName.NEW : AtomicName → Bool
  | .add_fetch | .and_fetch | .or_fetch | .xor_fetch
  | .smin_fetch | .umin_fetch | .smax_fetch | .umax_fetch => true
  | _ => false

/-- The `SIGNED` argument. -/
def AtomicName.SIGNED : AtomicName → GEN_OP_SIGN
  | .fetch_smin | .fetch_smax | .smin_fetch | .smax_fetch => .GEN_OP_SIGNED
  | .fetch_umin | .fetch_umax | .umin_fetch | .umax_fetch => .GEN_OP_UNSIGNED
  | _ => .GEN_OP_NO_SIGN

/-- The table `table_##NAME` of an instantiation. -/
def AtomicName.table (T : TCGTarget) (NAME : AtomicName) : Nat → Option AtomicRoutine :=
  atomic_table T NAME.helper

/-- The function `tcg_gen_atomic_##NAME##_i32` defined by `GEN_ATOMIC_HELPER`. -/
def tcg_gen_atomic_NAME_i32 (T : TCGTarget) (NAME : AtomicName) (ret : TCGv_i32) (addr : TCGv)
    (val : TCGv_i32) (idx memop : Nat) : Gen Unit := do
  let cflags ← tb_cflags
  if cflags &&& CF_PARALLEL ≠ 0 then
    do_atomic_op_i32 T ret addr val idx memop (NAME.table T)
  else
    do_nonatomic_op_i32 T ret addr val idx memop NAME.NEW (NAME.OP_i32 T) NAME.SIGNED

/-- The function `tcg_gen_atomic_##NAME##_i64` defined by `GEN_ATOMIC_HELPER`. -/
def tcg_gen_atomic_NAME_i64 (T : TCGTarget) (NAME : AtomicName) (ret : TCGv_i64) (addr : TCGv)
    (val : TCGv_i64) (idx memop : Nat) : Gen Unit := do
  let cflags ← tb_cflags
  if cflags &&& CF_PARALLEL ≠ 0 then
    do_atomic_op_i64 T ret addr val idx memop (NAME.table T)
  else
    do_nonatomic_op_i64 T ret addr val idx memop NAME.NEW (NAME.OP_i64 T) NAME.SIGNED

/-! ## The remaining lowering routines

The routines of `tcg/tcg-op.c` that no value-level statement below needs:
branches, divisions and remainders, the complemented logic ops, sign-bit
counts, zero deposits, the paired add and subtract, the mixed-sign multiplies,
and the 64-bit host loads and stores of a 32-bit host. -/

/-- Modelled from the spec: a label (tcg.h), "a branch-target placeholder with a
forward-reference count".  The source passes a pointer and increments the count
in place; here a routine that takes a label returns it updated. -/
structure TCGLabel where
  id : Nat
  refs : Nat
  deriving DecidableEq, Repr

/-- Modelled from the spec: `label_arg` (tcg.h), the op argument that refers to a
label. -/
def label_arg (l : TCGLabel) : TCGArg := l.id

/-- Modelled from the spec: a host pointer temporary (tcg.h). -/
abbrev TCGv_ptr := Nat

/-- Modelled from the spec: `tcg_gen_br` (tcg-op.h): "any branch op referencing it
before placement increments its reference count". -/
def tcg_gen_br (l : TCGLabel) : Gen TCGLabel := do
  tcg_gen_op1 .br (label_arg l)
  pure { l with refs := l.refs + 1 }

def tcg_gen_brcond_i32 (cond : TCGCond) (arg1 arg2 : TCGv_i32) (l : TCGLabel) :
    Gen TCGLabel := do
  if cond = .ALWAYS then
    tcg_gen_br l
  else if cond ≠ .NEVER then
    tcg_gen_op4 .brcond_i32 arg1 arg2 cond.toArg (label_arg { l with refs := l.refs + 1 })
    pure { l with refs := l.refs + 1 }
  else
    pure l

def tcg_gen_brcondi_i32 (cond : TCGCond) (arg1 : TCGv_i32) (arg2 : Nat) (l : TCGLabel) :
    Gen TCGLabel := do
  if cond = .ALWAYS then
    tcg_gen_br l
  else if cond ≠ .NEVER then
    let t0 ← tcg_const_i32 arg2
    let l1 ← tcg_gen_brcond_i32 cond arg1 t0 l
    tcg_temp_free_i32 t0
    pure l1
  else
    pure l

def tcg_gen_setcondi_i32 (cond : TCGCond) (ret arg1 : TCGv_i32) (arg2 : Nat) : Gen Unit := do
  let t0 ← tcg_const_i32 arg2
  tcg_gen_setcond_i32 cond ret arg1 t0
  tcg_temp_free_i32 t0

/-- Modelled from the spec: `gen_helper_div_i32` (generated from helper.h). -/
def gen_helper_div_i32 (ret arg1 arg2 : TCGv_i32) : Gen Unit :=
  tcg_gen_callN .div_i32 [ret, arg1, arg2]

/-- Modelled from the spec: `gen_helper_rem_i32` (generated from helper.h). -/
def gen_helper_rem_i32 (ret arg1 arg2 : TCGv_i32) : Gen Unit :=
  tcg_gen_callN .rem_i32 [ret, arg1, arg2]

/-- Modelled from the spec: `gen_helper_divu_i32` (generated from helper.h). -/
def gen_helper_divu_i32 (ret arg1 arg2 : TCGv_i32) : Gen Unit :=
  tcg_gen_callN .divu_i32 [ret, arg1, arg2]

/-- Modelled from the spec: `gen_helper_remu_i32` (generated from helper.h). -/
def gen_helper_remu_i32 (ret arg1 arg2 : TCGv_i32) : Gen Unit :=
  tcg_gen_callN .remu_i32 [ret, arg1, arg2]

/-- Modelled from the spec: `gen_helper_clrsb_i32` (generated from helper.h). -/
def gen_helper_clrsb_i32 (ret arg : TCGv_i32) : Gen Unit :=
  tcg_gen_callN .clrsb_i32 [ret, arg]

/-- Modelled from the spec: `gen_helper_div_i64` (generated from helper.h). -/
def gen_helper_div_i64 (T : TCGTarget) (ret arg1 arg2 : TCGv_i64) : Gen Unit :=
  gen_helper_i64 T .div_i64 ret arg1 arg2

/-- Modelled from the spec: `gen_helper_rem_i64` (generated from helper.h). -/
def gen_helper_rem_i64 (T : TCGTarget) (ret arg1 arg2 : TCGv_i64) : Gen Unit :=
  gen_helper_i64 T .rem_i64 ret arg1 arg2

/-- Modelled from the spec: `gen_helper_divu_i64` (generated from helper.h). -/
def gen_helper_divu_i64 (T : TCGTarget) (ret arg1 arg2 : TCGv_i64) : Gen Unit :=
  gen_helper_i64 T .divu_i64 ret arg1 arg2

/-- Modelled from the spec: `gen_helper_remu_i64` (generated from helper.h). -/
def gen_helper_remu_i64 (T : TCGTarget) (ret arg1 arg2 : TCGv_i64) : Gen Unit :=
  gen_helper_i64 T .remu_i64 ret arg1 arg2

/-- Modelled from the spec: `gen_helper_clrsb_i64` (generated from helper.h); on
a 32-bit host each value is passed as its low/high pair. -/
def gen_helper_clrsb_i64 (T : TCGTarget) (ret arg : TCGv_i64) : Gen Unit :=
  if T.reg64 then
    tcg_gen_callN .clrsb_i64 [ret, arg]
  else
    tcg_gen_callN .clrsb_i64 [TCGV_LOW ret, TCGV_HIGH ret, TCGV_LOW arg, TCGV_HIGH arg]

def tcg_gen_div_i32 (T : TCGTarget) (ret arg1 arg2 : TCGv_i32) : Gen Unit := do
  if T.TCG_TARGET_HAS_div_i32 then
    tcg_gen_op3 .div_i32 ret arg1 arg2
  else if T.TCG_TARGET_HAS_div2_i32 then
    let t0 ← tcg_temp_new_i32
    tcg_gen_sari_i32 t0 arg1 31
    tcg_gen_op5 .div2_i32 ret t0 arg1 t0 arg2
    tcg_temp_free_i32 t0
  else
    gen_helper_div_i32 ret arg1 arg2

def tcg_gen_rem_i32 (T : TCGTarget) (ret arg1 arg2 : TCGv_i32) : Gen Unit := do
  if T.TCG_TARGET_HAS_rem_i32 then
    tcg_gen_op3 .rem_i32 ret arg1 arg2
  else if T.TCG_TARGET_HAS_div_i32 then
    let t0 ← tcg_temp_new_i32
    tcg_gen_op3 .div_i32 t0 arg1 arg2
    tcg_gen_mul_i32 t0 t0 arg2
    tcg_gen_sub_i32 ret arg1 t0
    tcg_temp_free_i32 t0
  else if T.TCG_TARGET_HAS_div2_i32 then
    let t0 ← tcg_temp_new_i32
    tcg_gen_sari_i32 t0 arg1 31
    tcg_gen_op5 .div2_i32 t0 ret arg1 t0 arg2
    tcg_temp_free_i32 t0
  else
    gen_helper_rem_i32 ret arg1 arg2

def tcg_gen_divu_i32 (T : TCGTarget) (ret arg1 arg2 : TCGv_i32) : Gen Unit := do
  if T.TCG_TARGET_HAS_div_i32 then
    tcg_gen_op3 .divu_i32 ret arg1 arg2
  else if T.TCG_TARGET_HAS_div2_i32 then
    let t0 ← tcg_temp_new_i32
    tcg_gen_movi_i32 t0 0
    tcg_gen_op5 .divu2_i32 ret t0 arg1 t0 arg2
    tcg_temp_free_i32 t0
  else
    gen_helper_divu_i32 ret arg1 arg2

def tcg_gen_remu_i32 (T : TCGTarget) (ret arg1 arg2 : TCGv_i32) : Gen Unit := do
  if T.TCG_TARGET_HAS_rem_i32 then
    tcg_gen_op3 .remu_i32 ret arg1 arg2
  else if T.TCG_TARGET_HAS_div_i32 then
    let t0 ← tcg_temp_new_i32
    tcg_gen_op3 .divu_i32 t0 arg1 arg2
    tcg_gen_mul_i32 t0 t0 arg2
    tcg_gen_sub_i32 ret arg1 t0
    tcg_temp_free_i32 t0
  else if T.TCG_TARGET_HAS_div2_i32 then
    let t0 ← tcg_temp_new_i32
    tcg_gen_movi_i32 t0 0
    tcg_gen_op5 .divu2_i32 t0 ret arg1 t0 arg2
    tcg_temp_free_i32 t0
  else
    gen_helper_remu_i32 ret arg1 arg2

def tcg_gen_eqv_i32 (T : TCGTarget) (ret arg1 arg2 : TCGv_i32) : Gen Unit := do
  if T.TCG_TARGET_HAS_eqv_i32 then
    tcg_gen_op3 .eqv_i32 ret arg1 arg2
  else
    tcg_gen_xor_i32 ret arg1 arg2
    tcg_gen_not_i32 T ret ret

def tcg_gen_nand_i32 (T : TCGTarget) (ret arg1 arg2 : TCGv_i32) : Gen Unit := do
  if T.TCG_TARGET_HAS_nand_i32 then
    tcg_gen_op3 .nand_i32 ret arg1 arg2
  else
    tcg_gen_and_i32 ret arg1 arg2
    tcg_gen_not_i32 T ret ret

def tcg_gen_nor_i32 (T : TCGTarget) (ret arg1 arg2 : TCGv_i32) : Gen Unit := do
  if T.TCG_TARGET_HAS_nor_i32 then
    tcg_gen_op3 .nor_i32 ret arg1 arg2
  else
    tcg_gen_or_i32 ret arg1 arg2
    tcg_gen_not_i32 T ret ret

def tcg_gen_orc_i32 (T : TCGTarget) (ret arg1 arg2 : TCGv_i32) : Gen Unit := do
  if T.TCG_TARGET_HAS_orc_i32 then
    tcg_gen_op3 .orc_i32 ret arg1 arg2
  else
    let t0 ← tcg_temp_new_i32
    tcg_gen_not_i32 T t0 arg2
    tcg_gen_or_i32 ret arg1 t0
    tcg_temp_free_i32 t0

def tcg_gen_clrsb_i32 (T : TCGTarget) (ret arg : TCGv_i32) : Gen Unit := do
  if T.TCG_TARGET_HAS_clz_i32 then
    let t ← tcg_temp_new_i32
    tcg_gen_sari_i32 t arg 31
    tcg_gen_xor_i32 t t arg
    tcg_gen_clzi_i32 T t t 32
    tcg_gen_subi_i32 ret t 1
    tcg_temp_free_i32 t
  else
    gen_helper_clrsb_i32 ret arg

def tcg_gen_deposit_z_i32 (T : TCGTarget) (ret arg : TCGv_i32) (ofs len : Nat) :
    Gen Unit := do
  tcg_debug_assert (decide (ofs < 32))
  tcg_debug_assert (decide (len > 0))
  tcg_debug_assert (decide (len ≤ 32))
  tcg_debug_assert (decide (ofs + len ≤ 32))
  if ofs + len = 32 then
    tcg_gen_shli_i32 ret arg ofs
  else if ofs = 0 then
    tcg_gen_andi_i32 T ret arg (2 ^ len - 1)
  else if T.TCG_TARGET_HAS_deposit_i32 ∧ T.TCG_TARGET_deposit_i32_valid ofs len then
    let zero ← tcg_const_i32 0
    tcg_gen_op5 .deposit_i32 ret zero arg ofs len
    tcg_temp_free_i32 zero
  else if len = 16 ∧ T.TCG_TARGET_HAS_ext16u_i32 then
    tcg_gen_ext16u_i32 T ret arg
    tcg_gen_shli_i32 ret ret ofs
  else if len = 8 ∧ T.TCG_TARGET_HAS_ext8u_i32 then
    tcg_gen_ext8u_i32 T ret arg
    tcg_gen_shli_i32 ret ret ofs
  else if ofs + len = 16 ∧ T.TCG_TARGET_HAS_ext16u_i32 then
    tcg_gen_shli_i32 ret arg ofs
    tcg_gen_ext16u_i32 T ret ret
  else if ofs + len = 8 ∧ T.TCG_TARGET_HAS_ext8u_i32 then
    tcg_gen_shli_i32 ret arg ofs
    tcg_gen_ext8u_i32 T ret ret
  else
    tcg_gen_andi_i32 T ret arg (2 ^ len - 1)
    tcg_gen_shli_i32 ret ret ofs

def tcg_gen_concat_i32_i64 (T : TCGTarget) (dest : TCGv_i64) (low high : TCGv_i32) :
    Gen Unit := do
  if ¬ T.reg64 then
    tcg_gen_mov_i32 (TCGV_LOW dest) low
    tcg_gen_mov_i32 (TCGV_HIGH dest) high
  else
    let tmp ← tcg_temp_new_i64 T
    tcg_gen_extu_i32_i64 T tmp high
    tcg_gen_extu_i32_i64 T dest low
    if T.TCG_TARGET_HAS_deposit_i64 ∧ T.TCG_TARGET_deposit_i64_valid 32 32 then
      tcg_gen_deposit_i64 T dest dest tmp 32 32
    else
      tcg_gen_shli_i64 T tmp tmp 32
      tcg_gen_or_i64 T dest dest tmp
    tcg_temp_free_i64 tmp

def tcg_gen_add2_i32 (T : TCGTarget) (rl rh al ah bl bh : TCGv_i32) : Gen Unit := do
  if T.TCG_TARGET_HAS_add2_i32 then
    tcg_gen_op6 .add2_i32 rl rh al ah bl bh
  else
    let t0 ← tcg_temp_new_i64 T
    let t1 ← tcg_temp_new_i64 T
    tcg_gen_concat_i32_i64 T t0 al ah
    tcg_gen_concat_i32_i64 T t1 bl bh
    tcg_gen_add_i64 T t0 t0 t1
    tcg_gen_extr_i64_i32 T rl rh t0
    tcg_temp_free_i64 t0
    tcg_temp_free_i64 t1

def tcg_gen_sub2_i32 (T : TCGTarget) (rl rh al ah bl bh : TCGv_i32) : Gen Unit := do
  if T.TCG_TARGET_HAS_sub2_i32 then
    tcg_gen_op6 .sub2_i32 rl rh al ah bl bh
  else
    let t0 ← tcg_temp_new_i64 T
    let t1 ← tcg_temp_new_i64 T
    tcg_gen_concat_i32_i64 T t0 al ah
    tcg_gen_concat_i32_i64 T t1 bl bh
    tcg_gen_sub_i64 T t0 t0 t1
    tcg_gen_extr_i64_i32 T rl rh t0
    tcg_temp_free_i64 t0
    tcg_temp_free_i64 t1

/-- The routine `tcg_gen_mulsu2_i32`; `fuel` is the bound of `tcg_gen_mul_i64`. -/
def tcg_gen_mulsu2_i32 (T : TCGTarget) (fuel : Nat) (rl rh arg1 arg2 : TCGv_i32) :
    Gen Unit := do
  if ¬ T.reg64 then
    let t0 ← tcg_temp_new_i32
    let t1 ← tcg_temp_new_i32
    let t2 ← tcg_temp_new_i32
    tcg_gen_mulu2_i32 T fuel t0 t1 arg1 arg2
    tcg_gen_sari_i32 t2 arg1 31
    tcg_gen_and_i32 t2 t2 arg2
    tcg_gen_sub_i32 rh t1 t2
    tcg_gen_mov_i32 rl t0
    tcg_temp_free_i32 t0
    tcg_temp_free_i32 t1
    tcg_temp_free_i32 t2
  else
    let t0 ← tcg_temp_new_i64 T
    let t1 ← tcg_temp_new_i64 T
    tcg_gen_ext_i32_i64 T t0 arg1
    tcg_gen_extu_i32_i64 T t1 arg2
    tcg_gen_mul_i64 T fuel t0 t0 t1
    tcg_gen_extr_i64_i32 T rl rh t0
    tcg_temp_free_i64 t0
    tcg_temp_free_i64 t1

/-- Modelled from the spec: `tcg_gen_discard_i32` (tcg-op.h), one op. -/
def tcg_gen_discard_i32 (arg : TCGv_i32) : Gen Unit :=
  tcg_gen_op1 .discard arg

/-- Modelled from the spec: `tcg_gen_sync_i32` (tcg-op.h), one op. -/
def tcg_gen_sync_i32 (arg : TCGv_i32) : Gen Unit :=
  tcg_gen_op1 .sync arg

/-- Modelled from the spec: `tcg_gen_ld8u_i32` (tcg-op.h), one host load op from
`arg2 + offset`. -/
def tcg_gen_ld8u_i32 (ret : TCGv_i32) (arg2 : TCGv_ptr) (offset : Nat) : Gen Unit :=
  tcg_gen_op3 .ld8u_i32 ret arg2 offset

/-- Modelled from the spec: `tcg_gen_ld8s_i32` (tcg-op.h), one host load op. -/
def tcg_gen_ld8s_i32 (ret : TCGv_i32) (arg2 : TCGv_ptr) (offset : Nat) : Gen Unit :=
  tcg_gen_op3 .ld8s_i32 ret arg2 offset

/-- Modelled from the spec: `tcg_gen_ld16u_i32` (tcg-op.h), one host load op. -/
def tcg_gen_ld16u_i32 (ret : TCGv_i32) (arg2 : TCGv_ptr) (offset : Nat) : Gen Unit :=
  tcg_gen_op3 .ld16u_i32 ret arg2 offset

/-- Modelled from the spec: `tcg_gen_ld16s_i32` (tcg-op.h), one host load op. -/
def tcg_gen_ld16s_i32 (ret : TCGv_i32) (arg2 : TCGv_ptr) (offset : Nat) : Gen Unit :=
  tcg_gen_op3 .ld16s_i32 ret arg2 offset

/-- Modelled from the spec: `tcg_gen_ld_i32` (tcg-op.h), one host load op. -/
def tcg_gen_ld_i32 (ret : TCGv_i32) (arg2 : TCGv_ptr) (offset : Nat) : Gen Unit :=
  tcg_gen_op3 .ld_i32 ret arg2 offset

/-- Modelled from the spec: `tcg_gen_st_i32` (tcg-op.h), one host store op. -/
def tcg_gen_st_i32 (arg1 : TCGv_i32) (arg2 : TCGv_ptr) (offset : Nat) : Gen Unit :=
  tcg_gen_op3 .st_i32 arg1 arg2 offset

/-- On a 64-bit host the inline wrapper of tcg-op.h (one op, modelled from the
spec); on a 32-bit host the function of tcg-op.c. -/
def tcg_gen_discard_i64 (T : TCGTarget) (arg : TCGv_i64) : Gen Unit := do
  if T.reg64 then
    tcg_gen_op1 .discard arg
  else
    tcg_gen_discard_i32 (TCGV_LOW arg)
    tcg_gen_discard_i32 (TCGV_HIGH arg)

/-- On a 64-bit host the inline wrapper of tcg-op.h (one op, modelled from the
spec); on a 32-bit host the function of tcg-op.c. -/
def tcg_gen_sync_i64 (T : TCGTarget) (arg : TCGv_i64) : Gen Unit := do
  if T.reg64 then
    tcg_gen_op1 .sync arg
  else
    tcg_gen_sync_i32 (TCGV_LOW arg)
    tcg_gen_sync_i32 (TCGV_HIGH arg)

/-- On a 64-bit host the inline wrapper of tcg-op.h (one host load op, modelled
from the spec); on a 32-bit host the function of tcg-op.c. -/
def tcg_gen_ld8u_i64 (T : TCGTarget) (ret : TCGv_i64) (arg2 : TCGv_ptr) (offset : Nat) :
    Gen Unit := do
  if T.reg64 then
    tcg_gen_op3 .ld8u_i64 ret arg2 offset
  else
    tcg_gen_ld8u_i32 (TCGV_LOW ret) arg2 offset
    tcg_gen_movi_i32 (TCGV_HIGH ret) 0

/-- On a 64-bit host the inline wrapper of tcg-op.h (one host load op, modelled
from the spec); on a 32-bit host the function of tcg-op.c. -/
def tcg_gen_ld8s_i64 (T : TCGTarget) (ret : TCGv_i64) (arg2 : TCGv_ptr) (offset : Nat) :
    Gen Unit := do
  if T.reg64 then
    tcg_gen_op3 .ld8s_i64 ret arg2 offset
  else
    tcg_gen_ld8s_i32 (TCGV_LOW ret) arg2 offset
    tcg_gen_sari_i32 (TCGV_HIGH ret) (TCGV_LOW ret) 31

/-- On a 64-bit host the inline wrapper of tcg-op.h (one host load op, modelled
from the spec); on a 32-bit host the function of tcg-op.c. -/
def tcg_gen_ld16u_i64 (T : TCGTarget) (ret : TCGv_i64) (arg2 : TCGv_ptr) (offset : Nat) :
    Gen Unit := do
  if T.reg64 then
    tcg_gen_op3 .ld16u_i64 ret arg2 offset
  else
    tcg_gen_ld16u_i32 (TCGV_LOW ret) arg2 offset
    tcg_gen_movi_i32 (TCGV_HIGH ret) 0

/-- On a 64-bit host the inline wrapper of tcg-op.h (one host load op, modelled
from the spec); on a 32-bit host the function of tcg-op.c. -/
def tcg_gen_ld16s_i64 (T : TCGTarget) (ret : TCGv_i64) (arg2 : TCGv_ptr) (offset : Nat) :
    Gen Unit := do
  if T.reg64 then
    tcg_gen_op3 .ld16s_i64 ret arg2 offset
  else
    tcg_gen_ld16s_i32 (TCGV_LOW ret) arg2 offset
    tcg_gen_sari_i32 (TCGV_HIGH ret) (TCGV_LOW ret) 31

/-- On a 64-bit host the inline wrapper of tcg-op.h (one host load op, modelled
from the spec); on a 32-bit host the function of tcg-op.c. -/
def tcg_gen_ld32u_i64 (T : TCGTarget) (ret : TCGv_i64) (arg2 : TCGv_ptr) (offset : Nat) :
    Gen Unit := do
  if T.reg64 then
    tcg_gen_op3 .ld32u_i64 ret arg2 offset
  else
    tcg_gen_ld_i32 (TCGV_LOW ret) arg2 offset
    tcg_gen_movi_i32 (TCGV_HIGH ret) 0

/-- On a 64-bit host the inline wrapper of tcg-op.h (one host load op, modelled
from the spec); on a 32-bit host the function of tcg-op.c. -/
def tcg_gen_ld32s_i64 (T : TCGTarget) (ret : TCGv_i64) (arg2 : TCGv_ptr) (offset : Nat) :
    Gen Unit := do
  if T.reg64 then
    tcg_gen_op3 .ld32s_i64 ret arg2 offset
  else
    tcg_gen_ld_i32 (TCGV_LOW ret) arg2 offset
    tcg_gen_sari_i32 (TCGV_HIGH ret) (TCGV_LOW ret) 31

/-- On a 64-bit host the inline wrapper of tcg-op.h (one host load op, modelled
from the spec); on a 32-bit host the function of tcg-op.c, which loads the two
halves in the order of the host's byte order. -/
def tcg_gen_ld_i64 (T : TCGTarget) (ret : TCGv_i64) (arg2 : TCGv_ptr) (offset : Nat) :
    Gen Unit := do
  if T.reg64 then
    tcg_gen_op3 .ld_i64 ret arg2 offset
  else if T.HOST_WORDS_BIGENDIAN then
    tcg_gen_ld_i32 (TCGV_HIGH ret) arg2 offset
    tcg_gen_ld_i32 (TCGV_LOW ret) arg2 (offset + 4)
  else
    tcg_gen_ld_i32 (TCGV_LOW ret) arg2 offset
    tcg_gen_ld_i32 (TCGV_HIGH ret) arg2 (offset + 4)

/-- On a 64-bit host the inline wrapper of tcg-op.h (one host store op, modelled
from the spec); on a 32-bit host the function of tcg-op.c. -/
def tcg_gen_st_i64 (T : TCGTarget) (arg1 : TCGv_i64) (arg2 : TCGv_ptr) (offset : Nat) :
    Gen Unit := do
  if T.reg64 then
    tcg_gen_op3 .st_i64 arg1 arg2 offset
  else if T.HOST_WORDS_BIGENDIAN then
    tcg_gen_st_i32 (TCGV_HIGH arg1) arg2 offset
    tcg_gen_st_i32 (TCGV_LOW arg1) arg2 (offset + 4)
  else
    tcg_gen_st_i32 (TCGV_LOW arg1) arg2 offset
    tcg_gen_st_i32 (TCGV_HIGH arg1) arg2 (offset + 4)

def tcg_gen_brcond_i64 (T : TCGTarget) (cond : TCGCond) (arg1 arg2 : TCGv_i64)
    (l : TCGLabel) : Gen TCGLabel := do
  if cond = .ALWAYS then
    tcg_gen_br l
  else if cond ≠ .NEVER then
    if ¬ T.reg64 then
      tcg_gen_op6 .brcond2_i32 (TCGV_LOW arg1) (TCGV_HIGH arg1) (TCGV_LOW arg2)
        (TCGV_HIGH arg2) cond.toArg (label_arg { l with refs := l.refs + 1 })
    else
      tcg_gen_op4 .brcond_i64 arg1 arg2 cond.toArg (label_arg { l with refs := l.refs + 1 })
    pure { l with refs := l.refs + 1 }
  else
    pure l

def tcg_gen_brcondi_i64 (T : TCGTarget) (cond : TCGCond) (arg1 : TCGv_i64) (arg2 : Nat)
    (l : TCGLabel) : Gen TCGLabel := do
  if cond = .ALWAYS then
    tcg_gen_br l
  else if cond ≠ .NEVER then
    let t0 ← tcg_const_i64 T arg2
    let l1 ← tcg_gen_brcond_i64 T cond arg1 t0 l
    tcg_temp_free_i64 t0
    pure l1
  else
    pure l

def tcg_gen_setcondi_i64 (T : TCGTarget) (cond : TCGCond) (ret arg1 : TCGv_i64)
    (arg2 : Nat) : Gen Unit := do
  let t0 ← tcg_const_i64 T arg2
  tcg_gen_setcond_i64 T cond ret arg1 t0
  tcg_temp_free_i64 t0

def tcg_gen_div_i64 (T : TCGTarget) (ret arg1 arg2 : TCGv_i64) : Gen Unit := do
  if T.TCG_TARGET_HAS_div_i64 then
    tcg_gen_op3 .div_i64 ret arg1 arg2
  else if T.TCG_TARGET_HAS_div2_i64 then
    let t0 ← tcg_temp_new_i64 T
    tcg_gen_sari_i64 T t0 arg1 63
    tcg_gen_op5 .div2_i64 ret t0 arg1 t0 arg2
    tcg_temp_free_i64 t0
  else
    gen_helper_div_i64 T ret arg1 arg2

/-- The routine `tcg_gen_rem_i64`; `fuel` is the bound of `tcg_gen_mul_i64`. -/
def tcg_gen_rem_i64 (T : TCGTarget) (fuel : Nat) (ret arg1 arg2 : TCGv_i64) : Gen Unit := do
  if T.TCG_TARGET_HAS_rem_i64 then
    tcg_gen_op3 .rem_i64 ret arg1 arg2
  else if T.TCG_TARGET_HAS_div_i64 then
    let t0 ← tcg_temp_new_i64 T
    tcg_gen_op3 .div_i64 t0 arg1 arg2
    tcg_gen_mul_i64 T fuel t0 t0 arg2
    tcg_gen_sub_i64 T ret arg1 t0
    tcg_temp_free_i64 t0
  else if T.TCG_TARGET_HAS_div2_i64 then
    let t0 ← tcg_temp_new_i64 T
    tcg_gen_sari_i64 T t0 arg1 63
    tcg_gen_op5 .div2_i64 t0 ret arg1 t0 arg2
    tcg_temp_free_i64 t0
  else
    gen_helper_rem_i64 T ret arg1 arg2

def tcg_gen_divu_i64 (T : TCGTarget) (ret arg1 arg2 : TCGv_i64) : Gen Unit := do
  if T.TCG_TARGET_HAS_div_i64 then
    tcg_gen_op3 .divu_i64 ret arg1 arg2
  else if T.TCG_TARGET_HAS_div2_i64 then
    let t0 ← tcg_temp_new_i64 T
    tcg_gen_movi_i64 T t0 0
    tcg_gen_op5 .divu2_i64 ret t0 arg1 t0 arg2
    tcg_temp_free_i64 t0
  else
    gen_helper_divu_i64 T ret arg1 arg2

/-- The routine `tcg_gen_remu_i64`; `fuel` is the bound of `tcg_gen_mul_i64`. -/
def tcg_gen_remu_i64 (T : TCGTarget) (fuel : Nat) (ret arg1 arg2 : TCGv_i64) : Gen Unit := do
  if T.TCG_TARGET_HAS_rem_i64 then
    tcg_gen_op3 .remu_i64 ret arg1 arg2
  else if T.TCG_TARGET_HAS_div_i64 then
    let t0 ← tcg_temp_new_i64 T
    tcg_gen_op3 .divu_i64 t0 arg1 arg2
    tcg_gen_mul_i64 T fuel t0 t0 arg2
    tcg_gen_sub_i64 T ret arg1 t0
    tcg_temp_free_i64 t0
  else if T.TCG_TARGET_HAS_div2_i64 then
    let t0 ← tcg_temp_new_i64 T
    tcg_gen_movi_i64 T t0 0
    tcg_gen_op5 .divu2_i64 t0 ret arg1 t0 arg2
    tcg_temp_free_i64 t0
  else
    gen_helper_remu_i64 T ret arg1 arg2

def tcg_gen_eqv_i64 (T : TCGTarget) (ret arg1 arg2 : TCGv_i64) : Gen Unit := do
  if ¬ T.reg64 then
    tcg_gen_eqv_i32 T (TCGV_LOW ret) (TCGV_LOW arg1) (TCGV_LOW arg2)
    tcg_gen_eqv_i32 T (TCGV_HIGH ret) (TCGV_HIGH arg1) (TCGV_HIGH arg2)
  else if T.TCG_TARGET_HAS_eqv_i64 then
    tcg_gen_op3 .eqv_i64 ret arg1 arg2
  else
    tcg_gen_xor_i64 T ret arg1 arg2
    tcg_gen_not_i64 T ret ret

def tcg_gen_nand_i64 (T : TCGTarget) (ret arg1 arg2 : TCGv_i64) : Gen Unit := do
  if ¬ T.reg64 then
    tcg_gen_nand_i32 T (TCGV_LOW ret) (TCGV_LOW arg1) (TCGV_LOW arg2)
    tcg_gen_nand_i32 T (TCGV_HIGH ret) (TCGV_HIGH arg1) (TCGV_HIGH arg2)
  else if T.TCG_TARGET_HAS_nand_i64 then
    tcg_gen_op3 .nand_i64 ret arg1 arg2
  else
    tcg_gen_and_i64 T ret arg1 arg2
    tcg_gen_not_i64 T ret ret

def tcg_gen_nor_i64 (T : TCGTarget) (ret arg1 arg2 : TCGv_i64) : Gen Unit := do
  if ¬ T.reg64 then
    tcg_gen_nor_i32 T (TCGV_LOW ret) (TCGV_LOW arg1) (TCGV_LOW arg2)
    tcg_gen_nor_i32 T (TCGV_HIGH ret) (TCGV_HIGH arg1) (TCGV_HIGH arg2)
  else if T.TCG_TARGET_HAS_nor_i64 then
    tcg_gen_op3 .nor_i64 ret arg1 arg2
  else
    tcg_gen_or_i64 T ret arg1 arg2
    tcg_gen_not_i64 T ret ret

def tcg_gen_orc_i64 (T : TCGTarget) (ret arg1 arg2 : TCGv_i64) : Gen Unit := do
  if ¬ T.reg64 then
    tcg_gen_orc_i32 T (TCGV_LOW ret) (TCGV_LOW arg1) (TCGV_LOW arg2)
    tcg_gen_orc_i32 T (TCGV_HIGH ret) (TCGV_HIGH arg1) (TCGV_HIGH arg2)
  else if T.TCG_TARGET_HAS_orc_i64 then
    tcg_gen_op3 .orc_i64 ret arg1 arg2
  else
    let t0 ← tcg_temp_new_i64 T
    tcg_gen_not_i64 T t0 arg2
    tcg_gen_or_i64 T ret arg1 t0
    tcg_temp_free_i64 t0

def tcg_gen_clrsb_i64 (T : TCGTarget) (ret arg : TCGv_i64) : Gen Unit := do
  if T.TCG_TARGET_HAS_clz_i64 ∨ T.TCG_TARGET_HAS_clz_i32 then
    let t ← tcg_temp_new_i64 T
    tcg_gen_sari_i64 T t arg 63
    tcg_gen_xor_i64 T t t arg
    tcg_gen_clzi_i64 T t t 64
    tcg_gen_subi_i64 T ret t 1
    tcg_temp_free_i64 t
  else
    gen_helper_clrsb_i64 T ret arg

def tcg_gen_deposit_z_i64 (T : TCGTarget) (ret arg : TCGv_i64) (ofs len : Nat) :
    Gen Unit := do
  tcg_debug_assert (decide (ofs < 64))
  tcg_debug_assert (decide (len > 0))
  tcg_debug_assert (decide (len ≤ 64))
  tcg_debug_assert (decide (ofs + len ≤ 64))
  if ofs + len = 64 then
    tcg_gen_shli_i64 T ret arg ofs
  else if ofs = 0 then
    tcg_gen_andi_i64 T ret arg (2 ^ len - 1)
  else if T.TCG_TARGET_HAS_deposit_i64 ∧ T.TCG_TARGET_deposit_i64_valid ofs len then
    let zero ← tcg_const_i64 T 0
    tcg_gen_op5 .deposit_i64 ret zero arg ofs len
    tcg_temp_free_i64 zero
  else if ¬ T.reg64 ∧ ofs ≥ 32 then
    tcg_gen_deposit_z_i32 T (TCGV_HIGH ret) (TCGV_LOW arg) (ofs - 32) len
    tcg_gen_movi_i32 (TCGV_LOW ret) 0
  else if ¬ T.reg64 ∧ ofs + len ≤ 32 then
    tcg_gen_deposit_z_i32 T (TCGV_LOW ret) (TCGV_LOW arg) ofs len
    tcg_gen_movi_i32 (TCGV_HIGH ret) 0
  else if len = 32 ∧ T.TCG_TARGET_HAS_ext32u_i64 then
    tcg_gen_ext32u_i64 T ret arg
    tcg_gen_shli_i64 T ret ret ofs
  else if len = 16 ∧ T.TCG_TARGET_HAS_ext16u_i64 then
    tcg_gen_ext16u_i64 T ret arg
    tcg_gen_shli_i64 T ret ret ofs
  else if len = 8 ∧ T.TCG_TARGET_HAS_ext8u_i64 then
    tcg_gen_ext8u_i64 T ret arg
    tcg_gen_shli_i64 T ret ret ofs
  else if ofs + len = 32 ∧ T.TCG_TARGET_HAS_ext32u_i64 then
    tcg_gen_shli_i64 T ret arg ofs
    tcg_gen_ext32u_i64 T ret ret
  else if ofs + len = 16 ∧ T.TCG_TARGET_HAS_ext16u_i64 then
    tcg_gen_shli_i64 T ret arg ofs
    tcg_gen_ext16u_i64 T ret ret
  else if ofs + len = 8 ∧ T.TCG_TARGET_HAS_ext8u_i64 then
    tcg_gen_shli_i64 T ret arg ofs
    tcg_gen_ext8u_i64 T ret ret
  else
    tcg_gen_andi_i64 T ret arg (2 ^ len - 1)
    tcg_gen_shli_i64 T ret ret ofs

/-- The routine `tcg_gen_mulsu2_i64`; `fuel` is the bound of `tcg_gen_mulu2_i64`. -/
def tcg_gen_mulsu2_i64 (T : TCGTarget) (fuel : Nat) (rl rh arg1 arg2 : TCGv_i64) :
    Gen Unit := do
  let t0 ← tcg_temp_new_i64 T
  let t1 ← tcg_temp_new_i64 T
  let t2 ← tcg_temp_new_i64 T
  tcg_gen_mulu2_i64 T fuel t0 t1 arg1 arg2
  tcg_gen_sari_i64 T t2 arg1 63
  tcg_gen_and_i64 T t2 t2 arg2
  tcg_gen_sub_i64 T rh t1 t2
  tcg_gen_mov_i64 T rl t0
  tcg_temp_free_i64 t0
  tcg_temp_free_i64 t1
  tcg_temp_free_i64 t2

def tcg_gen_extr32_i64 (T : TCGTarget) (lo hi arg : TCGv_i64) : Gen Unit := do
  tcg_gen_ext32u_i64 T lo arg
  tcg_gen_shri_i64 T hi arg 32

/-! ## Observing an emitter -/

/-! ### Translation-block exits -/

/-- Modelled from the spec: `TB_EXIT_IDXMAX` (exec-all.h); "We only support two
chained exits". -/
def TB_EXIT_IDXMAX : Nat := 1

/-- Modelled from the spec: `TB_EXIT_REQUESTED` (exec-all.h), the index of "an
exit via the exitreq label". -/
def TB_EXIT_REQUESTED : Nat := 3

/-- The ops the exit routines append. -/
inductive TBOp
  | exit_tb (val : Nat)
  | goto_tb (idx : Nat)
  | plugin_disable_mem_helpers
  | lookup_tb_ptr (ptr : Nat)
  | goto_ptr (ptr : Nat)
  deriving DecidableEq, Repr

/-- The part of `tcg_ctx` the exit routines act on: the ops they append and
`goto_tb_issue_mask`. -/
structure TBContext where
  tb_ops : List TBOp
  goto_tb_issue_mask : Nat
  deriving DecidableEq, Repr

/-- What the exit routines consult: `CONFIG_DEBUG_TCG`,
`qemu_loglevel_mask(CPU_LOG_TB_NOCHAIN)` and whether plugins are built in. -/
structure TBConfig where
  CONFIG_DEBUG_TCG : Bool
  nochain : Bool
  CONFIG_PLUGIN : Bool
  deriving DecidableEq, Repr

/-- Modelled from the spec: `plugin_gen_disable_mem_helpers` (plugin-gen.c), an
emission hook of the plugin instrumentation. -/
def plugin_gen_disable_mem_helpers (C : TBConfig) (s : TBContext) : TBContext :=
  if C.CONFIG_PLUGIN then { s with tb_ops := s.tb_ops ++ [.plugin_disable_mem_helpers] } else s

/-- The routine `tcg_gen_exit_tb`, `tb` being the block's address (0 for `NULL`); a
failed assertion yields `none` and leaves the context as it was. -/
def tcg_gen_exit_tb (C : TBConfig) (tb idx : Nat) (s : TBContext) : Option Unit × TBContext :=
  let val := tb + idx
  let emit (val : Nat) : Option Unit × TBContext :=
    (some (), { plugin_gen_disable_mem_helpers C s with
      tb_ops := (plugin_gen_disable_mem_helpers C s).tb_ops ++ [.exit_tb val] })
  if tb = 0 then
    if idx = 0 then emit val else (none, s)
  else if idx ≤ TB_EXIT_IDXMAX then
    if C.CONFIG_DEBUG_TCG ∧ s.goto_tb_issue_mask &&& (1 <<< idx) = 0 then (none, s)
    else emit (if C.nochain then 0 else val)
  else
    if idx = TB_EXIT_REQUESTED then emit val else (none, s)

/-- The routine `tcg_gen_goto_tb`; a failed assertion yields `none` and leaves the
context as it was. -/
def tcg_gen_goto_tb (C : TBConfig) (idx : Nat) (s : TBContext) : Option Unit × TBContext :=
  if ¬ idx ≤ TB_EXIT_IDXMAX then (none, s)
  else if C.CONFIG_DEBUG_TCG ∧ s.goto_tb_issue_mask &&& (1 <<< idx) ≠ 0 then (none, s)
  else
    let s1 : TBContext :=
      if C.CONFIG_DEBUG_TCG then
        { s with goto_tb_issue_mask := s.goto_tb_issue_mask ||| (1 <<< idx) }
      else s
    let s2 := plugin_gen_disable_mem_helpers C s1
    (some (), if ¬ C.nochain then { s2 with tb_ops := s2.tb_ops ++ [.goto_tb idx] } else s2)

/-- The routine `tcg_gen_lookup_and_goto_ptr`.  `nb_temps` is the temporary counter
of the context, from which `tcg_temp_new_ptr` takes the pointer temporary; the
helper call `gen_helper_lookup_tb_ptr` and the `goto_ptr` op are modelled from
the spec as one record each. -/
def tcg_gen_lookup_and_goto_ptr (T : TCGTarget) (C : TBConfig) (s : TBContext)
    (nb_temps : Nat) : Option Unit × TBContext × Nat :=
  if T.TCG_TARGET_HAS_goto_ptr ∧ ¬ C.nochain then
    let s1 := plugin_gen_disable_mem_helpers C s
    let ptr : TCGv_ptr := nb_temps
    (some (), { s1 with tb_ops := s1.tb_ops ++ [.lookup_tb_ptr ptr, .goto_ptr ptr] },
      nb_temps + 1)
  else
    ((tcg_gen_exit_tb C 0 0 s).1, (tcg_gen_exit_tb C 0 0 s).2, nb_temps)

/-- A call of one of the two exit routines. -/
inductive TBCall
  | goto_tb (idx : Nat)
  | exit_tb (tb idx : Nat)
  deriving DecidableEq, Repr

/-- A sequence of calls of the exit routines within one translation unit; `none`
as soon as one of them fails an assertion. -/
def run_tb_calls (C : TBConfig) : List TBCall → TBContext → Option TBContext
  | [], s => some s
  | .goto_tb idx :: rest, s =>
      match tcg_gen_goto_tb C idx s with
      | (some _, s') => run_tb_calls C rest s'
      | (none, _) => none
  | .exit_tb tb idx :: rest, s =>
      match tcg_gen_exit_tb C tb idx s with
      | (some _, s') => run_tb_calls C rest s'
      | (none, _) => none

/-! ### Observations on the op stream -/

/-- The amount and the width of a primitive shift op about to run in machine
state `m`: the 32- and 64-bit shift ops, and the run-time shift routines that
a 32-bit host calls for a 64-bit shift; `none` for any other op. -/
def shift_amount (op : TCGOp) (m : Machine) : Option (Nat × Nat) :=
  let a (i : Nat) : Nat := op.args.getD i 0
  match op.opc with
  | .shl_i32 | .shr_i32 | .sar_i32 => some (m.regs (a 2) % 2 ^ 32, 32)
  | .shl_i64 | .shr_i64 | .sar_i64 => some (m.regs (a 2) % 2 ^ 64, 64)
  | .call =>
      if a 0 = Helper.shl_i64.toCtorIdx ∨ a 0 = Helper.shr_i64.toCtorIdx ∨
          a 0 = Helper.sar_i64.toCtorIdx then
        some (pair64 (m.regs (a 5)) (m.regs (a 6)), 64)
      else none
  | _ => none

/-- Every primitive shift that `ops` performs, run from `m`, has its amount in
the range `[0, width)` in which the primitive is defined. -/
def shifts_in_range : List TCGOp → Machine → Bool
  | [], _ => true
  | op :: ops, m =>
      (match shift_amount op m with
        | some (n, w) => decide (n < w)
        | none => true) && shifts_in_range ops (exec_op op m)

/-- The number of calls of the run-time routine `h` among `ops`. -/
def hook_calls (h : Helper) (ops : List TCGOp) : Nat :=
  (ops.filter fun op => op.opc == .call && op.args.head? == some h.toCtorIdx).length

/-- The ops appended by the emitter `g` started in context `s`; `none` when the
emission aborts. -/
def emitted (g : Gen Unit) (s : TCGContext) : Option (List TCGOp) :=
  (g s).1.map fun _ => (g s).2.ops.drop s.ops.length

/-- The emitter `g` started in context `s` aborts, leaving the context `s'`. -/
def aborts {α : Type} (g : Gen α) (s s' : TCGContext) : Prop :=
  g s = (none, s')

/-- The emitter `g` only appends: the op stream on entry is a prefix of the op
stream it leaves, whether it returns or aborts. -/
def Extends {α : Type} (g : Gen α) : Prop :=
  ∀ s : TCGContext, s.ops <+: (g s).2.ops

/-- The opcode is a guest memory access. -/
def TCGOpcode.is_qemu_ldst : TCGOpcode → Bool
  | .qemu_ld_i32 => true
  | .qemu_st_i32 => true
  | .qemu_ld_i64 => true
  | .qemu_st_i64 => true
  | _ => false

/-- The `MemOp` of a guest memory access op: its last argument packs the `MemOp`
above the 4-bit MMU index. -/
def TCGOp.memop (op : TCGOp) : Nat := op.args.getLastD 0 >>> 4

/-- The guest memory accesses among the ops `ops`, in order. -/
def mem_accesses (ops : List TCGOp) : List TCGOp :=
  ops.filter fun op => op.opc.is_qemu_ldst

/-- The emitter `g` appends no guest memory access, whether it returns or aborts. -/
def Quiet {α : Type} (g : Gen α) : Prop :=
  ∀ s : TCGContext, mem_accesses (g s).2.ops = mem_accesses s.ops

/-- The emitter `g`, when it returns, has appended exactly one guest memory
access, and that access satisfies `P`. -/
def Accesses {α : Type} (g : Gen α) (P : TCGOp → Prop) : Prop :=
  ∀ s : TCGContext, (g s).1 ≠ none →
    ∃ op, mem_accesses (g s).2.ops = mem_accesses s.ops ++ [op] ∧ P op

/-- The guest address a memory access op reads from the address temporary
`addr`: a low/high pair for a 64-bit guest on a 32-bit host. -/
def TCGTarget.addr_val (T : TCGTarget) (m : Machine) (addr : TCGv) : Nat :=
  if T.target_long64 ∧ ¬ T.reg64 then pair64 (m.regs (TCGV_LOW addr)) (m.regs (TCGV_HIGH addr))
  else m.regs addr % 2 ^ 64

/-- The guest address at which an entry point called with the address temporary
`addr` makes its access: the value the access op reads, taken after the 32-bit
copy that the plugin instrumentation makes of a 32-bit guest address. -/
def TCGTarget.ea (T : TCGTarget) (m : Machine) (addr : TCGv) : Nat :=
  if ¬ T.target_long64 ∧ T.plugin_insn then m.regs addr % 2 ^ 32 else T.addr_val m addr

/-- Number of host temporaries of a guest address temporary. -/
def TCGTarget.aw (T : TCGTarget) : Nat := if T.target_long64 then T.w64 else 1

/-- Two 64-bit temporaries are the same temporary or do not overlap. -/
def TCGTarget.sep (T : TCGTarget) (a b : TCGv_i64) : Prop :=
  a = b ∨ a + T.w64 ≤ b ∨ b + T.w64 ≤ a

instance (T : TCGTarget) (a b : TCGv_i64) : Decidable (T.sep a b) :=
  inferInstanceAs (Decidable (a = b ∨ a + T.w64 ≤ b ∨ b + T.w64 ≤ a))

/-- A host back end without any optional op, of the given word size. -/
def TCGTarget.plain (reg64 : Bool) : TCGTarget :=
  { reg64 := reg64
    TCG_TARGET_HAS_neg_i32 := false, TCG_TARGET_HAS_not_i32 := false
    TCG_TARGET_HAS_andc_i32 := false, TCG_TARGET_HAS_ext8s_i32 := false
    TCG_TARGET_HAS_ext16s_i32 := false, TCG_TARGET_HAS_ext8u_i32 := false
    TCG_TARGET_HAS_ext16u_i32 := false, TCG_TARGET_HAS_bswap16_i32 := false
    TCG_TARGET_HAS_bswap32_i32 := false, TCG_TARGET_HAS_rot_i32 := false
    TCG_TARGET_HAS_deposit_i32 := false, TCG_TARGET_HAS_extract_i32 := false
    TCG_TARGET_HAS_sextract_i32 := false, TCG_TARGET_HAS_extract2_i32 := false
    TCG_TARGET_HAS_movcond_i32 := false, TCG_TARGET_HAS_clz_i32 := false
    TCG_TARGET_deposit_i32_valid := fun _ _ => false
    TCG_TARGET_extract_i32_valid := fun _ _ => false
    has_neg_i64 := false, has_not_i64 := false, has_andc_i64 := false
    has_ext8s_i64 := false, has_ext16s_i64 := false, has_ext32s_i64 := false
    has_ext8u_i64 := false, has_ext16u_i64 := false, has_ext32u_i64 := false
    has_bswap16_i64 := false, has_bswap32_i64 := false, has_bswap64_i64 := false
    has_rot_i64 := false, has_deposit_i64 := false, has_extract_i64 := false
    has_sextract_i64 := false, has_extract2_i64 := false, has_movcond_i64 := false
    has_clz_i64 := false, has_extrl_i64_i32 := false, has_extrh_i64_i32 := false
    TCG_TARGET_deposit_i64_valid := fun _ _ => false
    TCG_TARGET_extract_i64_valid := fun _ _ => false
    TCG_GUEST_DEFAULT_MO := none
    TCG_TARGET_DEFAULT_MO := 0
    alignment_valid := fun _ => true
    TCG_TARGET_HAS_MEMORY_BSWAP := false
    target_long64 := false
    trace_mem_get_info := fun _ _ _ => 0
    trace_guest_mem := false, plugin_insn := false
    CONFIG_TCG_LOG_INSTR := false, tcg_ctx_logging_enabled := false
    TARGET_CHERI := false, TARGET_MIPS := false, TARGET_RISCV := false
    TARGET_AARCH64 := false, CONFIG_RVFI_DII := false
    CONFIG_SOFTMMU := true, CONFIG_ATOMIC64 := false
    TCG_TARGET_HAS_ctz_i32 := false, TCG_TARGET_HAS_ctpop_i32 := false
    has_ctz_i64 := false, has_ctpop_i64 := false
    ASSERT_IF_CHERI := true
    TCG_TARGET_HAS_mulu2_i32 := false, TCG_TARGET_HAS_muls2_i32 := false
    TCG_TARGET_HAS_muluh_i32 := false, TCG_TARGET_HAS_mulsh_i32 := false
    has_mulu2_i64 := false, has_muls2_i64 := false
    has_muluh_i64 := false, has_mulsh_i64 := false
    has_add2_i64 := false, has_sub2_i64 := false
    TCG_TARGET_HAS_div_i32 := false, TCG_TARGET_HAS_rem_i32 := false
    TCG_TARGET_HAS_div2_i32 := false, TCG_TARGET_HAS_eqv_i32 := false
    TCG_TARGET_HAS_nand_i32 := false, TCG_TARGET_HAS_nor_i32 := false
    TCG_TARGET_HAS_orc_i32 := false, has_add2_i32 := false, has_sub2_i32 := false
    has_div_i64 := false, has_rem_i64 := false, has_div2_i64 := false
    has_eqv_i64 := false, has_nand_i64 := false, has_nor_i64 := false
    has_orc_i64 := false, TCG_TARGET_HAS_goto_ptr := false
    HOST_WORDS_BIGENDIAN := false }

/-- A machine whose temporaries hold the listed values (0 elsewhere) and whose
memory is zero. -/
def Machine.ofList (l : List Nat) : Machine :=
  { regs := fun i => l.getD i 0, mem := fun _ => 0 }

/-- An emission context with `n` temporaries and an empty op stream. -/
def TCGContext.fresh (n : Nat) : TCGContext :=
  { ops := [], nb_temps := n, tb_cflags := 0 }

/-- The ops of a 64-bit move: one op on a 64-bit host, a low-word and a
high-word move on a 32-bit host. -/
def mov_i64_ops (T : TCGTarget) (ret value : Nat) : List TCGOp :=
  if T.reg64 then [⟨.mov_i64, [ret, value]⟩]
  else [⟨.mov_i32, [TCGV_LOW ret, TCGV_LOW value]⟩, ⟨.mov_i32, [TCGV_HIGH ret, TCGV_HIGH value]⟩]

/-! ## Meaning of emitters -/

/-- Two machines agree on memory and on every temporary below `n`. -/
def Agree (n : Nat) (m m' : Machine) : Prop :=
  m.mem = m'.mem ∧ ∀ t, t < n → m.regs t = m'.regs t

/-- The state transformer `F` reads only memory and temporaries below `n`. -/
def Local (n : Nat) (F : Machine → Machine) : Prop :=
  ∀ N, n ≤ N → ∀ m m', Agree N m m' → Agree N (F m) (F m')

/-- The emitter `g`, started in any context holding at least `n` temporaries,
succeeds, only appends ops, and the appended ops act as `F` on memory and on
every temporary that existed on entry. -/
def Sem (g : Gen Unit) (n : Nat) (F : Machine → Machine) : Prop :=
  Local n F ∧
  ∀ s : TCGContext, n ≤ s.nb_temps →
    ∃ δ k, g s = (some (), s.extend δ k) ∧ ∀ m, Agree s.nb_temps (run δ m) (F m)

/-- The emitter `g`, started in any context holding at least `n` temporaries,
succeeds, and `φ m` tells whether every primitive shift among the ops it appends
has its amount in range when the ops run from the machine state `m`. -/
def ShiftRange (g : Gen Unit) (n : Nat) (φ : Machine → Bool) : Prop :=
  ∀ s : TCGContext, n ≤ s.nb_temps →
    ∃ δ k, g s = (some (), s.extend δ k) ∧ ∀ m, shifts_in_range δ m = φ m

/-- A CHERI RISC-V guest on a host back end without any optional op: both
post-store hooks (tag invalidation, load-link break) are compiled in, and 64-bit
atomics are available. -/
def TCGTarget.cheri_riscv (reg64 : Bool) : TCGTarget :=
  { TCGTarget.plain reg64 with
    TARGET_CHERI := true, TARGET_RISCV := true, CONFIG_ATOMIC64 := true }

/-- An emission context with `n` temporaries and an empty op stream, for a unit
translated in parallel mode (`CF_PARALLEL`). -/
def TCGContext.parallel (n : Nat) : TCGContext :=
  { ops := [], nb_temps := n, tb_cflags := CF_PARALLEL }

/-- The `len`-bit field of `x` as a `w`-bit pattern: sign-extended when `signed`,
zero-extended otherwise. -/
def extend_from (w len : Nat) (signed : Bool) (x : Nat) : Nat :=
  if signed then sext w len x else x % 2 ^ len

/-- The operation `OP` of a read-modify-write family of `GEN_ATOMIC_HELPER` on
`w`-bit patterns, `old` being the value read and `v` the operand: the sum modulo
`2^w`, the bitwise and/or/xor, the signed or unsigned minimum or maximum, and for
the exchange the operand. -/
def AtomicName.op (w : Nat) (NAME : AtomicName) (old v : Nat) : Nat :=
  match NAME with
  | .fetch_add | .add_fetch => (old + v) % 2 ^ w
  | .fetch_and | .and_fetch => old &&& v
  | .fetch_or | .or_fetch => old ||| v
  | .fetch_xor | .xor_fetch => old ^^^ v
  | .fetch_smin | .smin_fetch => if toInt w old < toInt w v then old else v
  | .fetch_umin | .umin_fetch => if old < v then old else v
  | .fetch_smax | .smax_fetch => if toInt w old < toInt w v then v else old
  | .fetch_umax | .umax_fetch => if old < v then v else old
  | .xchg => v

/-- Whether a family extends its operands with sign from the access size: the
signed minimum and maximum do, the unsigned ones do not, and the families without
a signedness of their own follow the `MO_SIGN` bit of the `MemOp`. -/
def GEN_OP_SIGN.extends_signed (g : GEN_OP_SIGN) (memop : Nat) : Bool :=
  match g with
  | .GEN_OP_SIGNED => true
  | .GEN_OP_UNSIGNED => false
  | .GEN_OP_NO_SIGN => decide (memop &&& MO_SIGN ≠ 0)

/-- A call inside an emitter and the machine state it is made in: the emitter `g`,
started in the context `s`, returns, and its ops are a prefix, then the ops the emitter
`B` emits in the context the prefix leaves, then a rest; the prefix takes every machine
state `m` to a state `m'` with `Q m m'`. -/
def CalledAt (g : Gen Unit) (s : TCGContext) (B : Gen Unit)
    (Q : Machine → Machine → Prop) : Prop :=
  ∃ δ1 k1 δb kb δ3 k3,
    g s = (some (), ((s.extend δ1 k1).extend δb kb).extend δ3 k3) ∧
    B (s.extend δ1 k1) = (some (), (s.extend δ1 k1).extend δb kb) ∧
    ∀ m, Q m (run δ1 m)

/-! # Theorems -/

set_option linter.unusedVariables false
set_option linter.unnecessarySeqFocus false
set_option linter.unreachableTactic false
set_option linter.unusedTactic false


theorem Agree.refl (n : Nat) (m : Machine) : Agree n m m := ⟨rfl, fun _ _ => rfl⟩

theorem Agree.symm {n : Nat} {m m' : Machine} (h : Agree n m m') : Agree n m' m :=
  ⟨h.1.symm, fun t ht => (h.2 t ht).symm⟩

theorem Agree.trans {n : Nat} {m1 m2 m3 : Machine} (h : Agree n m1 m2) (h' : Agree n m2 m3) :
    Agree n m1 m3 :=
  ⟨h.1.trans h'.1, fun t ht => (h.2 t ht).trans (h'.2 t ht)⟩

theorem Agree.mono {n n' : Nat} {m m' : Machine} (h : Agree n m m') (hn : n' ≤ n) :
    Agree n' m m' :=
  ⟨h.1, fun t ht => h.2 t (lt_of_lt_of_le ht hn)⟩

theorem Agree.set {n : Nat} {m m' : Machine} (h : Agree n m m') (t : Nat) {v v' : Nat}
    (hv : v = v') : Agree n (m.set t v) (m'.set t v') := by
  subst hv
  refine ⟨h.1, fun i hi => ?_⟩
  simp only [Machine.set]
  split
  · rfl
  · exact h.2 i hi

@[simp] theorem Machine.set_mem (m : Machine) (t v : Nat) : (m.set t v).mem = m.mem := rfl

@[simp] theorem Machine.set_regs_self (m : Machine) (t v : Nat) : (m.set t v).regs t = v := by
  simp [Machine.set]

theorem Machine.set_regs_ne (m : Machine) {t i : Nat} (v : Nat) (h : i ≠ t) :
    (m.set t v).regs i = m.regs i := by
  simp [Machine.set, h]

theorem Machine.set_regs (m : Machine) (t i v : Nat) :
    (m.set t v).regs i = if i = t then v else m.regs i := rfl

theorem Gen.bind_apply {α β : Type} (x : Gen α) (f : α → Gen β) (s : TCGContext) :
    (x >>= f) s = Gen.andThen (x s) f := rfl

theorem Gen.andThen_some {α β : Type} (a : α) (s : TCGContext) (f : α → Gen β) :
    Gen.andThen (some a, s) f = f a s := rfl

theorem run_nil (m : Machine) : run [] m = m := rfl

theorem run_cons (op : TCGOp) (ops : List TCGOp) (m : Machine) :
    run (op :: ops) m = run ops (exec_op op m) := rfl

theorem run_append (a b : List TCGOp) (m : Machine) : run (a ++ b) m = run b (run a m) := by
  simp [run, List.foldl_append]

theorem TCGContext.extend_extend (s : TCGContext) (a b : List TCGOp) (j k : Nat) :
    (s.extend a j).extend b k = s.extend (a ++ b) (j + k) := by
  simp [TCGContext.extend, Nat.add_assoc]

theorem TCGContext.extend_nb_temps (s : TCGContext) (a : List TCGOp) (j : Nat) :
    (s.extend a j).nb_temps = s.nb_temps + j := rfl

theorem Local.comp {n : Nat} {F G : Machine → Machine} (hF : Local n F) (hG : Local n G) :
    Local n (G ∘ F) :=
  fun N hN m m' h => hG N hN _ _ (hF N hN m m' h)

theorem Local.id (n : Nat) : Local n id := fun _ _ _ _ h => h

theorem Local.mono_temps {n n' : Nat} {F : Machine → Machine} (h : Local n F) (hn : n ≤ n') :
    Local n' F :=
  fun N hN => h N (le_trans hn hN)

theorem Local.set_of {n : Nat} (r : Nat) {v : Machine → Nat}
    (hv : ∀ m m', Agree n m m' → v m = v m') : Local n (fun m => m.set r (v m)) :=
  fun _ hN m m' h => h.set r (hv m m' (h.mono hN))

theorem Sem.weaken {g : Gen Unit} {n n' : Nat} {F : Machine → Machine} (h : Sem g n F)
    (hn : n ≤ n') : Sem g n' F :=
  ⟨h.1.mono_temps hn, fun s hs => h.2 s (le_trans hn hs)⟩

theorem Sem.conseq {g : Gen Unit} {n : Nat} {F F' : Machine → Machine} (h : Sem g n F)
    (hF : ∀ N, n ≤ N → ∀ m, Agree N (F m) (F' m)) : Sem g n F' := by
  refine ⟨fun N hN m m' hm => ?_, fun s hs => ?_⟩
  · exact ((hF N hN m).symm.trans (h.1 N hN m m' hm)).trans (hF N hN m')
  · obtain ⟨δ, k, e, hr⟩ := h.2 s hs
    exact ⟨δ, k, e, fun m => (hr m).trans (hF _ hs m)⟩

theorem Sem.bind {g1 : Gen Unit} {k : Unit → Gen Unit} {n : Nat} {F1 F2 : Machine → Machine}
    (h1 : Sem g1 n F1) (h2 : Sem (k ()) n F2) : Sem (g1 >>= k) n (F2 ∘ F1) := by
  refine ⟨h1.1.comp h2.1, fun s hs => ?_⟩
  obtain ⟨δ1, k1, e1, r1⟩ := h1.2 s hs
  obtain ⟨δ2, k2, e2, r2⟩ := h2.2 (s.extend δ1 k1) (by simp [TCGContext.extend]; omega)
  refine ⟨δ1 ++ δ2, k1 + k2, ?_, fun m => ?_⟩
  · rw [Gen.bind_apply]
    rw [e1]
    simp only [Gen.andThen_some, e2, TCGContext.extend_extend]
  · rw [run_append]
    have a := (r2 (run δ1 m)).mono (show s.nb_temps ≤ (s.extend δ1 k1).nb_temps by
      simp [TCGContext.extend])
    exact a.trans (h2.1 _ hs _ _ (r1 m))

theorem Sem.pure (n : Nat) : Sem (pure ()) n id :=
  ⟨Local.id n, fun s _ => ⟨[], 0, by simp [Pure.pure, TCGContext.extend], fun m => Agree.refl _ _⟩⟩

theorem Sem.free (t n : Nat) : Sem (tcg_temp_free_i32 t) n id := Sem.pure n

theorem Sem.assert {c : Bool} {g : Unit → Gen Unit} {n : Nat} {F : Machine → Machine}
    (hc : c = true) (h : Sem (g ()) n F) : Sem (tcg_debug_assert c >>= g) n F := by
  subst hc
  exact h

theorem Sem.emit (opc : TCGOpcode) (args : List TCGArg) (n : Nat)
    (hL : Local n (exec_op ⟨opc, args⟩)) :
    Sem (tcg_emit_op opc args) n (exec_op ⟨opc, args⟩) :=
  ⟨hL, fun s _ => ⟨[⟨opc, args⟩], 0, rfl, fun m => Agree.refl _ _⟩⟩

theorem Sem.new {body : TCGv_i32 → Gen Unit} {n : Nat} {F : Nat → Machine → Machine}
    {F' : Machine → Machine} (hL : Local n F')
    (h : ∀ t, n ≤ t → Sem (body t) (t + 1) (F t))
    (hF : ∀ t, n ≤ t → ∀ m, Agree t (F t m) (F' m)) :
    Sem (tcg_temp_new_i32 >>= body) n F' := by
  refine ⟨hL, fun s hs => ?_⟩
  obtain ⟨δ, k, e, r⟩ := (h s.nb_temps hs).2 { s with nb_temps := s.nb_temps + 1 } (le_refl _)
  refine ⟨δ, 1 + k, ?_, fun m => ?_⟩
  · rw [Gen.bind_apply]
    simp only [tcg_temp_new_i32, Gen.andThen_some, e]
    simp [TCGContext.extend, Nat.add_assoc]
  · exact ((r m).mono (Nat.le_succ _)).trans (hF _ hs m)


theorem Sem.const {body : TCGv_i32 → Gen Unit} {n : Nat} {F : Nat → Machine → Machine}
    {F' : Machine → Machine} (c : Nat) (hL : Local n F')
    (h : ∀ t, n ≤ t → Sem (body t) (t + 1) (F t))
    (hF : ∀ t, n ≤ t → ∀ m, Agree t (F t (m.set t (c % 2 ^ 32))) (F' m)) :
    Sem (tcg_const_i32 c >>= body) n F' := by
  refine ⟨hL, fun s hs => ?_⟩
  obtain ⟨δ, k, e, r⟩ := (h s.nb_temps hs).2
    { s with nb_temps := s.nb_temps + 1, ops := s.ops ++ [⟨.movi_i32, [s.nb_temps, c]⟩] }
    (le_refl _)
  refine ⟨⟨.movi_i32, [s.nb_temps, c]⟩ :: δ, 1 + k, ?_, fun m => ?_⟩
  · rw [Gen.bind_apply]
    have : tcg_const_i32 c s = (some s.nb_temps,
        { s with nb_temps := s.nb_temps + 1,
                 ops := s.ops ++ [⟨.movi_i32, [s.nb_temps, c]⟩] }) := rfl
    rw [this]
    simp only [Gen.andThen_some, e]
    simp [TCGContext.extend, Nat.add_assoc]
  · rw [run_cons]
    exact ((r _).mono (Nat.le_succ _)).trans (hF _ hs m)

theorem Agree.of_set {N : Nat} {M m : Machine} {r Y : Nat} (hmem : M.mem = m.mem)
    (hret : M.regs r = Y) (hframe : ∀ i, i < N → i ≠ r → M.regs i = m.regs i) :
    Agree N M (m.set r Y) := by
  refine ⟨hmem, fun i hi => ?_⟩
  by_cases h : i = r
  · subst h; simp [hret]
  · rw [Machine.set_regs_ne _ _ h]; exact hframe i hi h

theorem Local.set0 (n r c : Nat) : Local n (fun m => m.set r c) :=
  Local.set_of r (fun _ _ _ => rfl)

theorem Local.set1 {n a : Nat} (r : Nat) (f : Nat → Nat) (ha : a < n) :
    Local n (fun m => m.set r (f (m.regs a))) :=
  Local.set_of r (fun _ _ h => by simp only [h.2 a ha])

theorem Local.set2 {n a b : Nat} (r : Nat) (f : Nat → Nat → Nat) (ha : a < n) (hb : b < n) :
    Local n (fun m => m.set r (f (m.regs a) (m.regs b))) :=
  Local.set_of r (fun _ _ h => by simp only [h.2 a ha, h.2 b hb])

theorem Sem.op0 (opc : TCGOpcode) (r c n : Nat) (v : Nat)
    (he : ∀ m, exec_op ⟨opc, [r, c]⟩ m = m.set r v) :
    Sem (tcg_gen_op2 opc r c) n (fun m => m.set r v) := by
  have : exec_op ⟨opc, [r, c]⟩ = fun m => m.set r v := funext he
  rw [← this]
  exact Sem.emit _ _ _ (this ▸ Local.set0 n r v)

theorem Sem.op1 (opc : TCGOpcode) {r a n : Nat} (f : Nat → Nat)
    (he : ∀ m, exec_op ⟨opc, [r, a]⟩ m = m.set r (f (m.regs a))) (ha : a < n) :
    Sem (tcg_gen_op2 opc r a) n (fun m => m.set r (f (m.regs a))) := by
  have : exec_op ⟨opc, [r, a]⟩ = fun m => m.set r (f (m.regs a)) := funext he
  rw [← this]
  exact Sem.emit _ _ _ (this ▸ Local.set1 r f ha)

theorem Sem.op2 (opc : TCGOpcode) {r a b n : Nat} (f : Nat → Nat → Nat)
    (he : ∀ m, exec_op ⟨opc, [r, a, b]⟩ m = m.set r (f (m.regs a) (m.regs b)))
    (ha : a < n) (hb : b < n) :
    Sem (tcg_gen_op3 opc r a b) n (fun m => m.set r (f (m.regs a) (m.regs b))) := by
  have : exec_op ⟨opc, [r, a, b]⟩ = fun m => m.set r (f (m.regs a) (m.regs b)) :=
    funext he
  rw [← this]
  exact Sem.emit _ _ _ (this ▸ Local.set2 r f ha hb)

theorem tcg_gen_mov_i32_sem {r a n : Nat} (ha : a < n) :
    Sem (tcg_gen_mov_i32 r a) n (fun m => m.set r (m.regs a % 2 ^ 32)) :=
  Sem.op1 .mov_i32 (fun x => x % 2 ^ 32) (fun _ => rfl) ha

theorem tcg_gen_movi_i32_sem (r c n : Nat) :
    Sem (tcg_gen_movi_i32 r c) n (fun m => m.set r (c % 2 ^ 32)) :=
  Sem.op0 .movi_i32 r c n _ (fun _ => rfl)

theorem tcg_gen_and_i32_sem {r a b n : Nat} (ha : a < n) (hb : b < n) :
    Sem (tcg_gen_and_i32 r a b) n
      (fun m => m.set r (m.regs a % 2 ^ 32 &&& m.regs b % 2 ^ 32)) :=
  Sem.op2 .and_i32 (fun x y => x % 2 ^ 32 &&& y % 2 ^ 32) (fun _ => rfl) ha hb
theorem tcg_gen_add_i32_sem {r a b n : Nat} (ha : a < n) (hb : b < n) :
    Sem (tcg_gen_add_i32 r a b) n
      (fun m => m.set r ((m.regs a % 2 ^ 32 + m.regs b % 2 ^ 32) % 2 ^ 32)) :=
  Sem.op2 .add_i32 (fun x y => (x % 2 ^ 32 + y % 2 ^ 32) % 2 ^ 32) (fun _ => rfl) ha hb

theorem tcg_gen_sub_i32_sem {r a b n : Nat} (ha : a < n) (hb : b < n) :
    Sem (tcg_gen_sub_i32 r a b) n
      (fun m => m.set r ((m.regs a % 2 ^ 32 + 2 ^ 32 - m.regs b % 2 ^ 32) % 2 ^ 32)) :=
  Sem.op2 .sub_i32 (fun x y => (x % 2 ^ 32 + 2 ^ 32 - y % 2 ^ 32) % 2 ^ 32) (fun _ => rfl) ha hb

theorem tcg_gen_or_i32_sem {r a b n : Nat} (ha : a < n) (hb : b < n) :
    Sem (tcg_gen_or_i32 r a b) n
      (fun m => m.set r (m.regs a % 2 ^ 32 ||| m.regs b % 2 ^ 32)) :=
  Sem.op2 .or_i32 (fun x y => x % 2 ^ 32 ||| y % 2 ^ 32) (fun _ => rfl) ha hb

theorem tcg_gen_xor_i32_sem {r a b n : Nat} (ha : a < n) (hb : b < n) :
    Sem (tcg_gen_xor_i32 r a b) n
      (fun m => m.set r (m.regs a % 2 ^ 32 ^^^ m.regs b % 2 ^ 32)) :=
  Sem.op2 .xor_i32 (fun x y => x % 2 ^ 32 ^^^ y % 2 ^ 32) (fun _ => rfl) ha hb

theorem tcg_gen_shl_i32_sem {r a b n : Nat} (ha : a < n) (hb : b < n) :
    Sem (tcg_gen_shl_i32 r a b) n
      (fun m => m.set r (((m.regs a % 2 ^ 32) <<< (m.regs b % 2 ^ 32)) % 2 ^ 32)) :=
  Sem.op2 .shl_i32 (fun x y => ((x % 2 ^ 32) <<< (y % 2 ^ 32)) % 2 ^ 32) (fun _ => rfl) ha hb

theorem tcg_gen_shr_i32_sem {r a b n : Nat} (ha : a < n) (hb : b < n) :
    Sem (tcg_gen_shr_i32 r a b) n
      (fun m => m.set r ((m.regs a % 2 ^ 32) >>> (m.regs b % 2 ^ 32))) :=
  Sem.op2 .shr_i32 (fun x y => (x % 2 ^ 32) >>> (y % 2 ^ 32)) (fun _ => rfl) ha hb

theorem tcg_gen_sar_i32_sem {r a b n : Nat} (ha : a < n) (hb : b < n) :
    Sem (tcg_gen_sar_i32 r a b) n
      (fun m => m.set r (sar 32 (m.regs a % 2 ^ 32) (m.regs b % 2 ^ 32))) :=
  Sem.op2 .sar_i32 (fun x y => sar 32 (x % 2 ^ 32) (y % 2 ^ 32)) (fun _ => rfl) ha hb

/-- A 32-bit immediate operation through a constant temporary. -/
theorem Sem.imm32 {g : TCGv_i32 → Gen Unit} {n r a : Nat} (c : Nat)
    (f : Nat → Nat → Nat) (v : Nat → Nat) (h1 : a < n)
    (hg : ∀ t, n ≤ t → Sem (g t) (t + 1) (fun m => m.set r (f (m.regs a) (m.regs t))))
    (hv : ∀ x, f x (c % 2 ^ 32) = v x) :
    Sem (tcg_const_i32 c >>= fun t0 => g t0 >>= fun _ => tcg_temp_free_i32 t0) n
      (fun m => m.set r (v (m.regs a))) := by
  refine Sem.const c (Local.set1 r v h1)
    (fun t ht => Sem.bind (hg t ht) (Sem.free t _)) (fun t ht m => ?_)
  refine Agree.of_set rfl ?_ (fun i hi hne => ?_)
  · simp (disch := omega) [Machine.set_regs_ne, hv, -Nat.reducePow]
  · simp (disch := omega) [Machine.set_regs_ne]

theorem mod32_small {c : Nat} (h : c < 32) : c % 2 ^ 32 % 2 ^ 32 = c := by omega

theorem tcg_gen_shli_i32_sem {r a n b : Nat} (h2 : b < 32) (h1 : a < n) :
    Sem (tcg_gen_shli_i32 r a b) n
      (fun m => m.set r (((m.regs a % 2 ^ 32) <<< b) % 2 ^ 32)) := by
  unfold tcg_gen_shli_i32
  refine Sem.assert (by simpa using h2) ?_
  beta_reduce
  split_ifs with c0
  · subst c0
    refine (tcg_gen_mov_i32_sem h1).conseq (fun N _ m => ?_)
    simp [Agree.refl]
  · exact Sem.imm32 b (fun x y => ((x % 2 ^ 32) <<< (y % 2 ^ 32)) % 2 ^ 32) _ h1
      (fun t ht => tcg_gen_shl_i32_sem (show a < t + 1 by omega) (show t < t + 1 by omega))
      (fun x => by show ((x % 2 ^ 32) <<< (b % 2 ^ 32 % 2 ^ 32)) % 2 ^ 32 = _
                   rw [mod32_small h2])

theorem tcg_gen_shri_i32_sem {r a n b : Nat} (h2 : b < 32) (h1 : a < n) :
    Sem (tcg_gen_shri_i32 r a b) n
      (fun m => m.set r ((m.regs a % 2 ^ 32) >>> b)) := by
  unfold tcg_gen_shri_i32
  refine Sem.assert (by simpa using h2) ?_
  beta_reduce
  split_ifs with c0
  · subst c0
    refine (tcg_gen_mov_i32_sem h1).conseq (fun N _ m => ?_)
    simp [Agree.refl]
  · exact Sem.imm32 b (fun x y => (x % 2 ^ 32) >>> (y % 2 ^ 32)) _ h1
      (fun t ht => tcg_gen_shr_i32_sem (show a < t + 1 by omega) (show t < t + 1 by omega))
      (fun x => by show (x % 2 ^ 32) >>> (b % 2 ^ 32 % 2 ^ 32) = _
                   rw [mod32_small h2])

theorem sar_zero (x : Nat) : sar 32 (x % 2 ^ 32) 0 = x % 2 ^ 32 := by
  unfold sar
  split <;> simp [Nat.mod_mod]

theorem tcg_gen_sari_i32_sem {r a n b : Nat} (h2 : b < 32) (h1 : a < n) :
    Sem (tcg_gen_sari_i32 r a b) n
      (fun m => m.set r (sar 32 (m.regs a % 2 ^ 32) b)) := by
  unfold tcg_gen_sari_i32
  refine Sem.assert (by simpa using h2) ?_
  beta_reduce
  split_ifs with c0
  · subst c0
    refine (tcg_gen_mov_i32_sem h1).conseq (fun N _ m => ?_)
    simp only [sar_zero]
    exact Agree.refl _ _
  · exact Sem.imm32 b (fun x y => sar 32 (x % 2 ^ 32) (y % 2 ^ 32)) _ h1
      (fun t ht => tcg_gen_sar_i32_sem (show a < t + 1 by omega) (show t < t + 1 by omega))
      (fun x => by show sar 32 (x % 2 ^ 32) (b % 2 ^ 32 % 2 ^ 32) = _
                   rw [mod32_small h2])

theorem tcg_gen_andi_i32_sem (T : TCGTarget) {r a n : Nat} (b : Nat) (h1 : a < n) :
    Sem (tcg_gen_andi_i32 T r a b) n
      (fun m => m.set r (m.regs a % 2 ^ 32 &&& b % 2 ^ 32)) := by
  unfold tcg_gen_andi_i32
  split_ifs with c0 c1 c2 c3
  · subst c0
    refine (tcg_gen_movi_i32_sem r 0 n).conseq (fun N hN m => ?_)
    simp [Agree.refl]
  · subst c1
    refine (tcg_gen_mov_i32_sem h1).conseq (fun N hN m => ?_)
    refine Agree.set (Agree.refl _ _) _ ?_
    rw [show (4294967295 : Nat) % 2 ^ 32 = 2 ^ 32 - 1 by norm_num,
      Nat.and_pow_two_sub_one_eq_mod, Nat.mod_mod]
  · obtain ⟨rfl, -⟩ := c2
    refine (Sem.op1 .ext8u_i32 (fun x => x % 2 ^ 32 % 2 ^ 8) (fun _ => rfl) h1).conseq
      (fun N hN m => Agree.set (Agree.refl _ _) _ ?_)
    rw [show (255 : Nat) % 2 ^ 32 = 2 ^ 8 - 1 by norm_num, Nat.and_pow_two_sub_one_eq_mod]
  · obtain ⟨rfl, -⟩ := c3
    refine (Sem.op1 .ext16u_i32 (fun x => x % 2 ^ 32 % 2 ^ 16) (fun _ => rfl) h1).conseq
      (fun N hN m => Agree.set (Agree.refl _ _) _ ?_)
    rw [show (65535 : Nat) % 2 ^ 32 = 2 ^ 16 - 1 by norm_num, Nat.and_pow_two_sub_one_eq_mod]
  · exact Sem.imm32 b (fun x y => x % 2 ^ 32 &&& y % 2 ^ 32) _ h1
      (fun t ht => tcg_gen_and_i32_sem (show a < t + 1 by omega) (show t < t + 1 by omega))
      (fun x => by show x % 2 ^ 32 &&& b % 2 ^ 32 % 2 ^ 32 = _
                   rw [Nat.mod_mod])
theorem testBit_ite (c : Prop) [Decidable c] (a b i : Nat) :
    (if c then a else b).testBit i = if c then a.testBit i else b.testBit i := by
  split <;> rfl

theorem testBit_sext (w l x i : Nat) :
    (sext w l x).testBit i =
      ((decide (i < l) && x.testBit i) ||
        (x.testBit (l - 1) && (decide (l ≤ i) && decide (i - l < w - l)))) := by
  unfold sext
  simp only [Nat.testBit_or, Nat.testBit_mod_two_pow, testBit_ite, Nat.testBit_shiftLeft,
    Nat.testBit_two_pow_sub_one, Nat.zero_testBit, ge_iff_le]
  split <;> simp [*]

theorem testBit_sar (w x n i : Nat) :
    (sar w x n).testBit i =
      (decide (i < w) && ((decide (n + i < w) && x.testBit (n + i)) ||
        (x.testBit (w - 1) && (decide (w - n ≤ i) && decide (i - (w - n) < n))))) := by
  unfold sar
  simp only [Nat.testBit_or, Nat.testBit_mod_two_pow, testBit_ite, Nat.testBit_shiftLeft,
    Nat.testBit_shiftRight, Nat.testBit_two_pow_sub_one, Nat.zero_testBit, ge_iff_le]
  split <;> simp [*]

theorem testBit_bnot (w x i : Nat) :
    (bnot w x).testBit i = (decide (i < w) && !x.testBit i) := by
  unfold bnot
  simp only [Nat.testBit_xor, Nat.testBit_mod_two_pow, Nat.testBit_two_pow_sub_one]
  by_cases h : i < w <;> simp [h]

theorem sar_shl_eq_sext (x l k : Nat) (h0 : 0 < l) (h1 : l + k ≤ 32) :
    sar 32 (((x <<< (32 - l - k)) % 2 ^ 32) % 2 ^ 32) (32 - l) = sext 32 l (x >>> k) := by
  apply Nat.eq_of_testBit_eq; intro i
  simp only [testBit_sar, testBit_sext, Nat.testBit_mod_two_pow, Nat.testBit_shiftLeft,
    Nat.testBit_shiftRight, ge_iff_le]
  rw [show 31 - (32 - l - k) = k + (l - 1) by omega]
  rcases Nat.lt_or_ge i l with hi | hi
  · simp (disch := omega) only [decide_eq_true, decide_eq_false, Bool.and_true, Bool.true_and,
      Bool.false_and, Bool.and_false, Bool.or_false, Bool.false_or]
    congr 1; omega
  · rcases Nat.lt_or_ge i 32 with hj | hj
    all_goals simp (disch := omega) only [decide_eq_true, decide_eq_false, Bool.and_true,
      Bool.true_and, Bool.false_and, Bool.and_false, Bool.or_false, Bool.false_or]

theorem tcg_gen_ext8u_i32_sem (T : TCGTarget) {r a n : Nat} (h1 : a < n) :
    Sem (tcg_gen_ext8u_i32 T r a) n (fun m => m.set r (m.regs a % 2 ^ 8)) := by
  unfold tcg_gen_ext8u_i32
  split_ifs
  · refine (Sem.op1 .ext8u_i32 (fun x => x % 2 ^ 32 % 2 ^ 8) (fun _ => rfl) h1).conseq
      (fun N hN m => Agree.set (Agree.refl _ _) _ ?_)
    omega
  · refine (tcg_gen_andi_i32_sem T 0xff h1).conseq
      (fun N hN m => Agree.set (Agree.refl _ _) _ ?_)
    rw [show (255 : Nat) % 2 ^ 32 = 2 ^ 8 - 1 by norm_num, Nat.and_pow_two_sub_one_eq_mod]
    omega

theorem tcg_gen_ext16u_i32_sem (T : TCGTarget) {r a n : Nat} (h1 : a < n) :
    Sem (tcg_gen_ext16u_i32 T r a) n (fun m => m.set r (m.regs a % 2 ^ 16)) := by
  unfold tcg_gen_ext16u_i32
  split_ifs
  · refine (Sem.op1 .ext16u_i32 (fun x => x % 2 ^ 32 % 2 ^ 16) (fun _ => rfl) h1).conseq
      (fun N hN m => Agree.set (Agree.refl _ _) _ ?_)
    omega
  · refine (tcg_gen_andi_i32_sem T 0xffff h1).conseq
      (fun N hN m => Agree.set (Agree.refl _ _) _ ?_)
    rw [show (65535 : Nat) % 2 ^ 32 = 2 ^ 16 - 1 by norm_num, Nat.and_pow_two_sub_one_eq_mod]
    omega

theorem sext_mod (w l x : Nat) (h : 0 < l) (hw : l ≤ w) :
    sext w l (x % 2 ^ w) = sext w l x := by
  apply Nat.eq_of_testBit_eq; intro i
  simp only [testBit_sext, Nat.testBit_mod_two_pow]
  rcases Nat.lt_or_ge i l with hi | hi
  all_goals simp (disch := omega) only [decide_eq_true, decide_eq_false, Bool.and_true,
      Bool.true_and, Bool.false_and, Bool.and_false, Bool.or_false, Bool.false_or]

/-- Two emitters in sequence that both write `ret`. -/
theorem Sem.seq2 {g1 : Gen Unit} {k : Unit → Gen Unit} {n r : Nat}
    {v1 v2 v : Machine → Nat}
    (h1 : Sem g1 n (fun m => m.set r (v1 m)))
    (h2 : Sem (k ()) n (fun m => m.set r (v2 m)))
    (hv : ∀ m, v2 (m.set r (v1 m)) = v m) :
    Sem (g1 >>= k) n (fun m => m.set r (v m)) := by
  refine (Sem.bind h1 h2).conseq (fun N _ m => ?_)
  refine Agree.of_set rfl ?_ (fun i hi hne => ?_)
  · simp only [Function.comp, Machine.set_regs_self, hv]
  · simp only [Function.comp, Machine.set_regs_ne _ _ hne]

theorem tcg_gen_ext8s_i32_sem (T : TCGTarget) {r a n : Nat} (h1 : a < n) (hr : r < n) :
    Sem (tcg_gen_ext8s_i32 T r a) n (fun m => m.set r (sext 32 8 (m.regs a))) := by
  unfold tcg_gen_ext8s_i32
  split_ifs
  · refine (Sem.op1 .ext8s_i32 (fun x => sext 32 8 (x % 2 ^ 32)) (fun _ => rfl) h1).conseq
      (fun N hN m => Agree.set (Agree.refl _ _) _ ?_)
    exact sext_mod 32 8 _ (by omega) (by omega)
  · refine Sem.seq2 (tcg_gen_shli_i32_sem (by omega) h1) (tcg_gen_sari_i32_sem (by omega) hr)
      (fun m => ?_)
    rw [Machine.set_regs_self]
    have := sar_shl_eq_sext (m.regs a % 2 ^ 32) 8 0 (by omega) (by omega)
    simp only [Nat.shiftRight_zero, Nat.sub_zero] at this
    rw [show 32 - 8 = 24 by rfl] at this
    rw [this, sext_mod 32 8 _ (by omega) (by omega)]

theorem tcg_gen_ext16s_i32_sem (T : TCGTarget) {r a n : Nat} (h1 : a < n) (hr : r < n) :
    Sem (tcg_gen_ext16s_i32 T r a) n (fun m => m.set r (sext 32 16 (m.regs a))) := by
  unfold tcg_gen_ext16s_i32
  split_ifs
  · refine (Sem.op1 .ext16s_i32 (fun x => sext 32 16 (x % 2 ^ 32)) (fun _ => rfl) h1).conseq
      (fun N hN m => Agree.set (Agree.refl _ _) _ ?_)
    exact sext_mod 32 16 _ (by omega) (by omega)
  · refine Sem.seq2 (tcg_gen_shli_i32_sem (by omega) h1) (tcg_gen_sari_i32_sem (by omega) hr)
      (fun m => ?_)
    rw [Machine.set_regs_self]
    have := sar_shl_eq_sext (m.regs a % 2 ^ 32) 16 0 (by omega) (by omega)
    simp only [Nat.shiftRight_zero, Nat.sub_zero] at this
    rw [show 32 - 16 = 16 by rfl] at this
    rw [this, sext_mod 32 16 _ (by omega) (by omega)]

theorem Sem.emit1 (opc : TCGOpcode) (args : List TCGArg) {r a n : Nat} (f : Nat → Nat)
    (he : ∀ m, exec_op ⟨opc, args⟩ m = m.set r (f (m.regs a))) (ha : a < n) :
    Sem (tcg_emit_op opc args) n (fun m => m.set r (f (m.regs a))) := by
  have : exec_op ⟨opc, args⟩ = fun m => m.set r (f (m.regs a)) := funext he
  rw [← this]
  exact Sem.emit _ _ _ (this ▸ Local.set1 r f ha)

theorem Sem.emit2 (opc : TCGOpcode) (args : List TCGArg) {r a b n : Nat} (f : Nat → Nat → Nat)
    (he : ∀ m, exec_op ⟨opc, args⟩ m = m.set r (f (m.regs a) (m.regs b)))
    (ha : a < n) (hb : b < n) :
    Sem (tcg_emit_op opc args) n (fun m => m.set r (f (m.regs a) (m.regs b))) := by
  have : exec_op ⟨opc, args⟩ = fun m => m.set r (f (m.regs a) (m.regs b)) := funext he
  rw [← this]
  exact Sem.emit _ _ _ (this ▸ Local.set2 r f ha hb)

theorem tcg_gen_extract_i32_sem (T : TCGTarget) {r a n o l : Nat}
    (h1 : a < n) (hr : r < n) (ho : o < 32) (hl : 0 < l) (hol : o + l ≤ 32) :
    Sem (tcg_gen_extract_i32 T r a o l) n
      (fun m => m.set r (((m.regs a % 2 ^ 32) >>> o) % 2 ^ l)) := by
  unfold tcg_gen_extract_i32
  refine Sem.assert (by simpa using ho) (Sem.assert (by simpa using hl)
    (Sem.assert (by simp; omega) (Sem.assert (by simpa using hol) ?_)))
  beta_reduce
  split_ifs with c1 c2 c3 c4 c5 c6
  · refine (tcg_gen_shri_i32_sem (by omega) h1).conseq
      (fun N hN m => Agree.set (Agree.refl _ _) _ ?_)
    apply Nat.eq_of_testBit_eq; intro i
    simp only [Nat.testBit_shiftRight, Nat.testBit_mod_two_pow]
    rcases Nat.lt_or_ge i l with hi | hi
    · simp (disch := omega) only [decide_eq_true, decide_eq_false, Bool.and_true,
        Bool.true_and, Bool.false_and, Bool.and_false, Bool.or_false, Bool.false_or]
      congr 1; omega
    · simp (disch := omega) only [decide_eq_true, decide_eq_false, Bool.and_true,
        Bool.true_and, Bool.false_and, Bool.and_false, Bool.or_false, Bool.false_or]
  · subst c2
    refine (tcg_gen_andi_i32_sem T _ h1).conseq
      (fun N hN m => Agree.set (Agree.refl _ _) _ ?_)
    apply Nat.eq_of_testBit_eq; intro i
    simp only [Nat.testBit_shiftRight, Nat.testBit_mod_two_pow, Nat.testBit_and,
      Nat.testBit_two_pow_sub_one, Nat.zero_add]
    rcases Nat.lt_or_ge i l with hi | hi
    all_goals simp (disch := omega) only [decide_eq_true, decide_eq_false, Bool.and_true,
        Bool.true_and, Bool.false_and, Bool.and_false, Bool.or_false, Bool.false_or]
  · exact Sem.emit1 .extract_i32 [r, a, o, l]
      (fun x => ((x % 2 ^ 32) >>> o) % 2 ^ l) (fun _ => rfl) h1
  · refine Sem.seq2 (tcg_gen_ext16u_i32_sem T h1) (tcg_gen_shri_i32_sem (by omega) hr)
      (fun m => ?_)
    rw [Machine.set_regs_self]
    apply Nat.eq_of_testBit_eq; intro i
    simp only [Nat.testBit_shiftRight, Nat.testBit_mod_two_pow]
    rcases Nat.lt_or_ge i l with hi | hi
    all_goals simp (disch := omega) only [decide_eq_true, decide_eq_false, Bool.and_true,
        Bool.true_and, Bool.false_and, Bool.and_false, Bool.or_false, Bool.false_or]
  · refine Sem.seq2 (tcg_gen_ext8u_i32_sem T h1) (tcg_gen_shri_i32_sem (by omega) hr)
      (fun m => ?_)
    rw [Machine.set_regs_self]
    apply Nat.eq_of_testBit_eq; intro i
    simp only [Nat.testBit_shiftRight, Nat.testBit_mod_two_pow]
    rcases Nat.lt_or_ge i l with hi | hi
    all_goals simp (disch := omega) only [decide_eq_true, decide_eq_false, Bool.and_true,
        Bool.true_and, Bool.false_and, Bool.and_false, Bool.or_false, Bool.false_or]
  · refine Sem.seq2 (tcg_gen_shri_i32_sem (by omega) h1) (tcg_gen_andi_i32_sem T _ hr)
      (fun m => ?_)
    rw [Machine.set_regs_self]
    apply Nat.eq_of_testBit_eq; intro i
    simp only [Nat.testBit_shiftRight, Nat.testBit_mod_two_pow, Nat.testBit_and,
      Nat.testBit_two_pow_sub_one]
    rcases Nat.lt_or_ge i l with hi | hi
    all_goals simp (disch := omega) only [decide_eq_true, decide_eq_false, Bool.and_true,
        Bool.true_and, Bool.false_and, Bool.and_false, Bool.or_false, Bool.false_or]
  · refine Sem.seq2 (tcg_gen_shli_i32_sem (by omega) h1) (tcg_gen_shri_i32_sem (by omega) hr)
      (fun m => ?_)
    rw [Machine.set_regs_self]
    apply Nat.eq_of_testBit_eq; intro i
    simp only [Nat.testBit_shiftRight, Nat.testBit_shiftLeft, Nat.testBit_mod_two_pow,
      ge_iff_le]
    rcases Nat.lt_or_ge i l with hi | hi
    · simp (disch := omega) only [decide_eq_true, decide_eq_false, Bool.and_true,
        Bool.true_and, Bool.false_and, Bool.and_false, Bool.or_false, Bool.false_or]
      congr 1; omega
    · simp (disch := omega) only [decide_eq_true, decide_eq_false, Bool.and_true,
        Bool.true_and, Bool.false_and, Bool.and_false, Bool.or_false, Bool.false_or]

theorem tcg_gen_sextract_i32_sem (T : TCGTarget) {r a n o l : Nat}
    (h1 : a < n) (hr : r < n) (ho : o < 32) (hl : 0 < l) (hol : o + l ≤ 32) :
    Sem (tcg_gen_sextract_i32 T r a o l) n
      (fun m => m.set r (sext 32 l ((m.regs a % 2 ^ 32) >>> o))) := by
  unfold tcg_gen_sextract_i32
  refine Sem.assert (by simpa using ho) (Sem.assert (by simpa using hl)
    (Sem.assert (by simp; omega) (Sem.assert (by simpa using hol) ?_)))
  beta_reduce
  split_ifs with c1 c2 c3 c4 c5 c6 c7 c8
  · refine (tcg_gen_sari_i32_sem (by omega) h1).conseq
      (fun N hN m => Agree.set (Agree.refl _ _) _ ?_)
    apply Nat.eq_of_testBit_eq; intro i
    simp only [testBit_sar, testBit_sext, Nat.testBit_shiftRight, Nat.testBit_mod_two_pow]
    rw [show o + (l - 1) = 32 - 1 by omega]
    rcases Nat.lt_or_ge i l with hi | hi
    · simp (disch := omega) only [decide_eq_true, decide_eq_false, Bool.and_true,
        Bool.true_and, Bool.false_and, Bool.and_false, Bool.or_false, Bool.false_or]
      congr 1; omega
    · rcases Nat.lt_or_ge i 32 with hj | hj
      all_goals simp (disch := omega) only [decide_eq_true, decide_eq_false, Bool.and_true,
        Bool.true_and, Bool.false_and, Bool.and_false, Bool.or_false, Bool.false_or]
  · obtain ⟨rfl, rfl⟩ := c2
    refine (tcg_gen_ext16s_i32_sem T h1 hr).conseq
      (fun N hN m => Agree.set (Agree.refl _ _) _ ?_)
    rw [Nat.shiftRight_zero, sext_mod 32 16 _ (by omega) (by omega)]
  · obtain ⟨rfl, rfl⟩ := c3
    refine (tcg_gen_ext8s_i32_sem T h1 hr).conseq
      (fun N hN m => Agree.set (Agree.refl _ _) _ ?_)
    rw [Nat.shiftRight_zero, sext_mod 32 8 _ (by omega) (by omega)]
  · exact Sem.emit1 .sextract_i32 [r, a, o, l]
      (fun x => sext 32 l ((x % 2 ^ 32) >>> o)) (fun _ => rfl) h1
  · refine Sem.seq2 (tcg_gen_ext16s_i32_sem T h1 hr) (tcg_gen_sari_i32_sem (by omega) hr)
      (fun m => ?_)
    rw [Machine.set_regs_self]
    apply Nat.eq_of_testBit_eq; intro i
    simp only [testBit_sar, testBit_sext, Nat.testBit_shiftRight, Nat.testBit_mod_two_pow]
    rw [show o + (l - 1) = 16 - 1 by omega]
    rcases Nat.lt_or_ge i l with hi | hi
    · simp (disch := omega) only [decide_eq_true, decide_eq_false, Bool.and_true,
        Bool.true_and, Bool.false_and, Bool.and_false, Bool.or_false, Bool.false_or]
    · rcases Nat.lt_or_ge i 32 with hj | hj
      · rcases Nat.lt_or_ge (o + i) 32 with hk | hk
        all_goals simp (disch := omega) only [decide_eq_true, decide_eq_false, Bool.and_true,
          Bool.true_and, Bool.false_and, Bool.and_false, Bool.or_false, Bool.false_or,
          Bool.or_self]
      · simp (disch := omega) only [decide_eq_true, decide_eq_false, Bool.and_true,
          Bool.true_and, Bool.false_and, Bool.and_false, Bool.or_false, Bool.false_or,
          Bool.or_self]
  · refine Sem.seq2 (tcg_gen_ext8s_i32_sem T h1 hr) (tcg_gen_sari_i32_sem (by omega) hr)
      (fun m => ?_)
    rw [Machine.set_regs_self]
    apply Nat.eq_of_testBit_eq; intro i
    simp only [testBit_sar, testBit_sext, Nat.testBit_shiftRight, Nat.testBit_mod_two_pow]
    rw [show o + (l - 1) = 8 - 1 by omega]
    rcases Nat.lt_or_ge i l with hi | hi
    · simp (disch := omega) only [decide_eq_true, decide_eq_false, Bool.and_true,
        Bool.true_and, Bool.false_and, Bool.and_false, Bool.or_false, Bool.false_or]
    · rcases Nat.lt_or_ge i 32 with hj | hj
      · rcases Nat.lt_or_ge (o + i) 32 with hk | hk
        all_goals simp (disch := omega) only [decide_eq_true, decide_eq_false, Bool.and_true,
          Bool.true_and, Bool.false_and, Bool.and_false, Bool.or_false, Bool.false_or,
          Bool.or_self]
      · simp (disch := omega) only [decide_eq_true, decide_eq_false, Bool.and_true,
          Bool.true_and, Bool.false_and, Bool.and_false, Bool.or_false, Bool.false_or,
          Bool.or_self]
  · obtain ⟨rfl, -⟩ := c7
    exact Sem.seq2 (tcg_gen_shri_i32_sem (by omega) h1) (tcg_gen_ext16s_i32_sem T hr hr)
      (fun m => by rw [Machine.set_regs_self])
  · obtain ⟨rfl, -⟩ := c8
    exact Sem.seq2 (tcg_gen_shri_i32_sem (by omega) h1) (tcg_gen_ext8s_i32_sem T hr hr)
      (fun m => by rw [Machine.set_regs_self])
  · refine Sem.seq2 (tcg_gen_shli_i32_sem (by omega) h1) (tcg_gen_sari_i32_sem (by omega) hr)
      (fun m => ?_)
    rw [Machine.set_regs_self]
    exact sar_shl_eq_sext _ l o hl (by omega)
theorem Sem.new2 {body : TCGv_i32 → TCGv_i32 → Gen Unit} {n : Nat}
    {F : Nat → Machine → Machine} {F' : Machine → Machine} (hL : Local n F')
    (h : ∀ t, n ≤ t → Sem (body t (t + 1)) (t + 2) (F t))
    (hF : ∀ t, n ≤ t → ∀ m, Agree t (F t m) (F' m)) :
    Sem (tcg_temp_new_i32 >>= fun t0 => tcg_temp_new_i32 >>= fun t1 => body t0 t1) n F' := by
  refine ⟨hL, fun s hs => ?_⟩
  obtain ⟨δ, k, e, r⟩ := (h s.nb_temps hs).2 { s with nb_temps := s.nb_temps + 2 } (le_refl _)
  refine ⟨δ, 2 + k, ?_, fun m => ?_⟩
  · rw [Gen.bind_apply]
    simp only [tcg_temp_new_i32, Gen.andThen_some]
    rw [Gen.bind_apply]
    simp only [tcg_temp_new_i32, Gen.andThen_some]
    rw [show s.nb_temps + 1 + 1 = s.nb_temps + 2 by omega, e]
    simp [TCGContext.extend, Nat.add_assoc]
  · exact ((r m).mono (Nat.le_add_right _ 2)).trans (hF _ hs m)

theorem rotl_zero (x : Nat) : rotl 32 x 0 = x % 2 ^ 32 := by
  unfold rotl
  apply Nat.eq_of_testBit_eq; intro i
  simp only [Nat.zero_mod, Nat.shiftLeft_zero, Nat.sub_zero, Nat.testBit_mod_two_pow,
    Nat.testBit_or, Nat.testBit_shiftRight]
  rcases Nat.lt_or_ge i 32 with hi | hi
  all_goals simp (disch := omega) only [decide_eq_true, decide_eq_false, Bool.and_true,
      Bool.true_and, Bool.false_and, Bool.and_false, Bool.or_false, Bool.false_or]

theorem tcg_gen_rotli_i32_sem (T : TCGTarget) {r a n b : Nat}
    (h2 : b < 32) (h1 : a < n) :
    Sem (tcg_gen_rotli_i32 T r a b) n
      (fun m => m.set r (rotl 32 (m.regs a) b)) := by
  unfold tcg_gen_rotli_i32
  refine Sem.assert (by simpa using h2) ?_
  beta_reduce
  split_ifs with c0 c1
  · subst c0
    refine (tcg_gen_mov_i32_sem h1).conseq (fun N _ m => Agree.set (Agree.refl _ _) _ ?_)
    rw [rotl_zero]
  · refine Sem.imm32 b (fun x y => rotl 32 (x % 2 ^ 32) (y % 2 ^ 32))
      (fun x => rotl 32 x b) h1
      (fun t ht => ?_) (fun x => ?_)
    · unfold tcg_gen_rotl_i32
      rw [if_pos c1]
      exact Sem.op2 .rotl_i32 (fun x y => rotl 32 (x % 2 ^ 32) (y % 2 ^ 32)) (fun _ => rfl)
        (by omega) (by omega)
    · show rotl 32 (x % 2 ^ 32) (b % 2 ^ 32 % 2 ^ 32) = rotl 32 x b
      rw [mod32_small h2]
      unfold rotl
      rw [Nat.mod_mod]
  · refine Sem.new2 (Local.set1 r (fun x => rotl 32 x b) h1) (fun t ht =>
      Sem.bind (tcg_gen_shli_i32_sem (r := t) h2 (show a < t + 2 by omega))
      (Sem.bind (tcg_gen_shri_i32_sem (r := t + 1) (show 32 - b < 32 by omega)
        (show a < t + 2 by omega))
      (Sem.bind (tcg_gen_or_i32_sem (r := r) (show t < t + 2 by omega)
        (show t + 1 < t + 2 by omega))
      (Sem.bind (Sem.free t _) (Sem.free (t + 1) _))))) (fun t ht m => ?_)
    refine Agree.of_set rfl ?_ (fun i hi hne => ?_)
    · simp (disch := omega) only [Function.comp, id, Machine.set_regs_self,
        Machine.set_regs_ne]
      unfold rotl
      rw [Nat.mod_eq_of_lt (show b < 32 from h2)]
      apply Nat.eq_of_testBit_eq; intro i
      simp only [Nat.testBit_shiftRight, Nat.testBit_shiftLeft, Nat.testBit_mod_two_pow,
        Nat.testBit_or, ge_iff_le]
      rcases Nat.lt_or_ge i 32 with hi | hi
      all_goals simp (disch := omega) only [decide_eq_true, decide_eq_false, Bool.and_true,
        Bool.true_and, Bool.false_and, Bool.and_false, Bool.or_false, Bool.false_or]
    · simp (disch := omega) only [Function.comp, id, Machine.set_regs_ne]

theorem rotr_zero (x : Nat) : rotr 32 x 0 = x % 2 ^ 32 := by
  unfold rotr
  apply Nat.eq_of_testBit_eq; intro i
  simp only [Nat.zero_mod, Nat.shiftRight_zero, Nat.sub_zero, Nat.testBit_mod_two_pow,
    Nat.testBit_or, Nat.testBit_shiftLeft, ge_iff_le]
  rcases Nat.lt_or_ge i 32 with hi | hi
  all_goals simp (disch := omega) only [decide_eq_true, decide_eq_false, Bool.and_true,
      Bool.true_and, Bool.false_and, Bool.and_false, Bool.or_false, Bool.false_or]

theorem testBit_rotl (w x n i : Nat) (hn : n < w) :
    (rotl w x n).testBit i =
      (decide (i < w) && ((decide (n ≤ i) && x.testBit (i - n)) ||
        (decide (w - n + i < w) && x.testBit (w - n + i)))) := by
  unfold rotl
  rw [Nat.mod_eq_of_lt hn]
  simp only [Nat.testBit_shiftRight, Nat.testBit_shiftLeft, Nat.testBit_mod_two_pow,
    Nat.testBit_or, ge_iff_le]
  rcases Nat.lt_or_ge i w with hi | hi
  · rcases Nat.lt_or_ge i n with hj | hj
    all_goals simp (disch := omega) only [decide_eq_true, decide_eq_false, Bool.and_true,
      Bool.true_and, Bool.false_and, Bool.and_false, Bool.or_false, Bool.false_or]
  · simp (disch := omega) only [decide_eq_true, decide_eq_false, Bool.and_true,
      Bool.true_and, Bool.false_and, Bool.and_false, Bool.or_false, Bool.false_or]

theorem testBit_rotr (w x n i : Nat) (hn : n < w) :
    (rotr w x n).testBit i =
      (decide (i < w) && ((decide (n + i < w) && x.testBit (n + i)) ||
        (decide (w - n ≤ i) && x.testBit (i - (w - n))))) := by
  unfold rotr
  rw [Nat.mod_eq_of_lt hn]
  simp only [Nat.testBit_shiftRight, Nat.testBit_shiftLeft, Nat.testBit_mod_two_pow,
    Nat.testBit_or, ge_iff_le]
  rcases Nat.lt_or_ge i w with hi | hi
  · rcases Nat.lt_or_ge (n + i) w with hj | hj
    all_goals simp (disch := omega) only [decide_eq_true, decide_eq_false, Bool.and_true,
      Bool.true_and, Bool.false_and, Bool.and_false, Bool.or_false, Bool.false_or]
  · simp (disch := omega) only [decide_eq_true, decide_eq_false, Bool.and_true,
      Bool.true_and, Bool.false_and, Bool.and_false, Bool.or_false, Bool.false_or]

theorem rotl_sub_eq_rotr (w x n : Nat) (h0 : 0 < n) (hn : n < w) :
    rotl w x (w - n) = rotr w x n := by
  apply Nat.eq_of_testBit_eq; intro i
  rw [testBit_rotl w x (w - n) i (by omega), testBit_rotr w x n i hn]
  rw [show w - (w - n) = n by omega]
  rcases Nat.lt_or_ge i w with hi | hi
  · rcases Nat.lt_or_ge (n + i) w with hj | hj
    all_goals simp (disch := omega) only [decide_eq_true, decide_eq_false, Bool.and_true,
      Bool.true_and, Bool.false_and, Bool.and_false, Bool.or_false, Bool.false_or]
  · simp (disch := omega) only [decide_eq_true, decide_eq_false, Bool.and_true,
      Bool.true_and, Bool.false_and, Bool.and_false, Bool.or_false, Bool.false_or]

theorem tcg_gen_rotri_i32_sem (T : TCGTarget) {r a n b : Nat}
    (h2 : b < 32) (h1 : a < n) :
    Sem (tcg_gen_rotri_i32 T r a b) n
      (fun m => m.set r (rotr 32 (m.regs a) b)) := by
  unfold tcg_gen_rotri_i32
  refine Sem.assert (by simpa using h2) ?_
  beta_reduce
  split_ifs with c0
  · subst c0
    refine (tcg_gen_mov_i32_sem h1).conseq (fun N _ m => Agree.set (Agree.refl _ _) _ ?_)
    rw [rotr_zero]
  · refine (tcg_gen_rotli_i32_sem T (show 32 - b < 32 by omega) h1).conseq
      (fun N _ m => Agree.set (Agree.refl _ _) _ ?_)
    exact rotl_sub_eq_rotr 32 _ b (by omega) h2

theorem testBit_extract2 (w u v o i : Nat) :
    (extract2 w u v o).testBit i =
      (decide (i < w) && ((decide (o + i < w) && u.testBit (o + i)) ||
        (decide (w ≤ o + i) && (decide (o + i - w < w) && v.testBit (o + i - w))))) := by
  unfold extract2
  rw [Nat.add_comm (u % 2 ^ w), Nat.mul_comm]
  simp only [Nat.testBit_mod_two_pow, Nat.testBit_shiftRight,
    Nat.testBit_mul_pow_two_add _ (Nat.mod_lt u (Nat.two_pow_pos w))]
  rcases Nat.lt_or_ge (o + i) w with hj | hj
  · simp (disch := omega) only [decide_eq_true, decide_eq_false, Bool.and_true, if_pos hj,
      Bool.true_and, Bool.false_and, Bool.and_false, Bool.or_false, Bool.false_or]
  · simp (disch := omega) only [decide_eq_true, decide_eq_false, Bool.and_true,
      if_neg (show ¬ o + i < w by omega),
      Bool.true_and, Bool.false_and, Bool.and_false, Bool.or_false, Bool.false_or]

theorem testBit_deposit (w x y o l i : Nat) :
    (deposit w x y o l).testBit i =
      (decide (i < w) && ((decide (o ≤ i) && (decide (i - o < l) && y.testBit (i - o))) ||
        (!(decide (o ≤ i) && decide (i - o < l)) && x.testBit i))) := by
  unfold deposit
  simp only [Nat.testBit_or, Nat.testBit_and, testBit_bnot, Nat.testBit_mod_two_pow,
    Nat.testBit_shiftLeft, Nat.testBit_two_pow_sub_one, ge_iff_le]
  rcases Nat.lt_or_ge i w with hi | hi
  · rcases Nat.lt_or_ge i o with hj | hj
    · simp (disch := omega) only [decide_eq_true, decide_eq_false, Bool.and_true,
        Bool.true_and, Bool.false_and, Bool.and_false, Bool.or_false, Bool.false_or,
        Bool.not_false, Bool.not_true]
    · rcases Nat.lt_or_ge (i - o) l with hk | hk
      all_goals simp (disch := omega) only [decide_eq_true, decide_eq_false, Bool.and_true,
        Bool.true_and, Bool.false_and, Bool.and_false, Bool.or_false, Bool.false_or,
        Bool.not_false, Bool.not_true]
  · simp (disch := omega) only [decide_eq_true, decide_eq_false, Bool.and_true,
      Bool.true_and, Bool.false_and, Bool.and_false, Bool.or_false, Bool.false_or]

theorem extract2_mod (w u v o : Nat) :
    extract2 w (u % 2 ^ w) (v % 2 ^ w) o = extract2 w u v o := by
  unfold extract2
  rw [Nat.mod_mod, Nat.mod_mod]

/-- `tcg_gen_extract2_i32` on the paths that do not go through `tcg_gen_deposit_i32`. -/
theorem tcg_gen_extract2_i32_sem_native (T : TCGTarget) {r u v n o : Nat}
    (hl : u < n) (hh : v < n) (ho : o ≤ 32)
    (hc : o = 0 ∨ o = 32 ∨ u = v ∨ T.TCG_TARGET_HAS_extract2_i32 = true) :
    Sem (tcg_gen_extract2_i32 T r u v o) n
      (fun m => m.set r (extract2 32 (m.regs u) (m.regs v) o)) := by
  unfold tcg_gen_extract2_i32
  refine Sem.assert (by simpa using ho) ?_
  beta_reduce
  split_ifs with c0 c1 c2 c3
  · subst c0
    refine (tcg_gen_mov_i32_sem hl).conseq (fun N _ m => Agree.set (Agree.refl _ _) _ ?_)
    apply Nat.eq_of_testBit_eq; intro i
    simp only [testBit_extract2, Nat.testBit_mod_two_pow, Nat.zero_add]
    rcases Nat.lt_or_ge i 32 with hi | hi
    all_goals simp (disch := omega) only [decide_eq_true, decide_eq_false, Bool.and_true,
      Bool.true_and, Bool.false_and, Bool.and_false, Bool.or_false, Bool.false_or]
  · subst c1
    refine (tcg_gen_mov_i32_sem hh).conseq (fun N _ m => Agree.set (Agree.refl _ _) _ ?_)
    apply Nat.eq_of_testBit_eq; intro i
    simp only [testBit_extract2, Nat.testBit_mod_two_pow]
    rcases Nat.lt_or_ge i 32 with hi | hi
    · simp (disch := omega) only [decide_eq_true, decide_eq_false, Bool.and_true,
        Bool.true_and, Bool.false_and, Bool.and_false, Bool.or_false, Bool.false_or]
      congr 1; omega
    · simp (disch := omega) only [decide_eq_true, decide_eq_false, Bool.and_true,
        Bool.true_and, Bool.false_and, Bool.and_false, Bool.or_false, Bool.false_or]
  · subst c2
    refine (tcg_gen_rotri_i32_sem T (show o < 32 by omega) hl).conseq
      (fun N _ m => Agree.set (Agree.refl _ _) _ ?_)
    apply Nat.eq_of_testBit_eq; intro i
    simp only [testBit_extract2, testBit_rotr 32 _ o i (show o < 32 by omega)]
    rcases Nat.lt_or_ge i 32 with hi | hi
    · rcases Nat.lt_or_ge (o + i) 32 with hj | hj
      · simp (disch := omega) only [decide_eq_true, decide_eq_false, Bool.and_true,
          Bool.true_and, Bool.false_and, Bool.and_false, Bool.or_false, Bool.false_or]
      · simp (disch := omega) only [decide_eq_true, decide_eq_false, Bool.and_true,
          Bool.true_and, Bool.false_and, Bool.and_false, Bool.or_false, Bool.false_or]
        congr 1; omega
    · simp (disch := omega) only [decide_eq_true, decide_eq_false, Bool.and_true,
        Bool.true_and, Bool.false_and, Bool.and_false, Bool.or_false, Bool.false_or]
  · refine (Sem.emit2 .extract2_i32 [r, u, v, o]
      (fun x y => extract2 32 (x % 2 ^ 32) (y % 2 ^ 32) o) (fun _ => rfl) hl hh).conseq
      (fun N _ m => Agree.set (Agree.refl _ _) _ ?_)
    exact extract2_mod 32 _ _ _
  · exfalso
    rcases hc with h | h | h | h
    · exact c0 h
    · exact c1 h
    · exact c2 h
    · exact c3 h

theorem deposit_mod (x y o l : Nat) :
    deposit 32 (x % 2 ^ 32) (y % 2 ^ 32) o l = deposit 32 x y o l := by
  apply Nat.eq_of_testBit_eq; intro i
  simp only [testBit_deposit, Nat.testBit_mod_two_pow]
  rcases Nat.lt_or_ge i 32 with hi | hi
  · rcases Nat.lt_or_ge (i - o) 32 with hj | hj
    all_goals simp (disch := omega) only [decide_eq_true, decide_eq_false, Bool.and_true,
      Bool.true_and, Bool.false_and, Bool.and_false, Bool.or_false, Bool.false_or]
  · simp (disch := omega) only [decide_eq_true, decide_eq_false, Bool.and_true,
      Bool.true_and, Bool.false_and, Bool.and_false, Bool.or_false, Bool.false_or]
theorem tcg_gen_deposit_i32_sem (T : TCGTarget) {r a b n o l : Nat}
    (h1 : a < n) (h2 : b < n) (hr : r < n)
    (ho : o < 32) (hl : 0 < l) (hol : o + l ≤ 32) :
    Sem (tcg_gen_deposit_i32 T r a b o l) n
      (fun m => m.set r (deposit 32 (m.regs a) (m.regs b) o l)) := by
  unfold tcg_gen_deposit_i32
  refine Sem.assert (by simpa using ho) (Sem.assert (by simpa using hl)
    (Sem.assert (by simp; omega) (Sem.assert (by simpa using hol) ?_)))
  beta_reduce
  split_ifs with c1 c2 c3 c4 c5
  · refine (tcg_gen_mov_i32_sem h2).conseq (fun N _ m => Agree.set (Agree.refl _ _) _ ?_)
    apply Nat.eq_of_testBit_eq; intro i
    simp only [testBit_deposit, Nat.testBit_mod_two_pow]
    rcases Nat.lt_or_ge i 32 with hi | hi
    all_goals simp (disch := omega) only [decide_eq_true, decide_eq_false, Bool.and_true,
      Bool.true_and, Bool.false_and, Bool.and_false, Bool.or_false, Bool.false_or,
      Bool.not_false, Bool.not_true, Nat.sub_zero, show o = 0 by omega]
  · refine (Sem.emit2 .deposit_i32 [r, a, b, o, l]
      (fun x y => deposit 32 (x % 2 ^ 32) (y % 2 ^ 32) o l) (fun _ => rfl) h1 h2).conseq
      (fun N _ m => Agree.set (Agree.refl _ _) _ ?_)
    exact deposit_mod _ _ _ _
  · refine Sem.new (Local.set2 r (fun x y => deposit 32 x y o l) h1 h2) (fun t ht =>
      Sem.bind (tcg_gen_shli_i32_sem (r := t) (show l < 32 by omega)
        (show a < t + 1 by omega))
      (Sem.bind (tcg_gen_extract2_i32_sem_native T (r := r) (show t < t + 1 by omega)
        (show b < t + 1 by omega) (show l ≤ 32 by omega) (Or.inr (Or.inr (Or.inr c3.1))))
      (Sem.free t _))) (fun t ht m => ?_)
    refine Agree.of_set rfl ?_ (fun i hi hne => ?_)
    · simp (disch := omega) only [Function.comp, id, Machine.set_regs_self,
        Machine.set_regs_ne]
      apply Nat.eq_of_testBit_eq; intro i
      simp only [testBit_deposit, testBit_extract2, Nat.testBit_mod_two_pow,
        Nat.testBit_shiftLeft, ge_iff_le]
      rcases Nat.lt_or_ge i 32 with hi | hi
      · rcases Nat.lt_or_ge i o with hj | hj
        · simp (disch := omega) only [decide_eq_true, decide_eq_false, Bool.and_true,
            Bool.true_and, Bool.false_and, Bool.and_false, Bool.or_false, Bool.false_or,
            Bool.not_false, Bool.not_true]
          congr 1; omega
        · simp (disch := omega) only [decide_eq_true, decide_eq_false, Bool.and_true,
            Bool.true_and, Bool.false_and, Bool.and_false, Bool.or_false, Bool.false_or,
            Bool.not_false, Bool.not_true]
          congr 1; omega
      · simp (disch := omega) only [decide_eq_true, decide_eq_false, Bool.and_true,
          Bool.true_and, Bool.false_and, Bool.and_false, Bool.or_false, Bool.false_or]
    · simp (disch := omega) only [Function.comp, id, Machine.set_regs_ne]
  · obtain ⟨c4a, rfl⟩ := c4
    refine Sem.new (Local.set2 r (fun x y => deposit 32 x y 0 l) h1 h2) (fun t ht =>
      Sem.bind (tcg_gen_extract2_i32_sem_native T (r := r) (show a < t + 1 by omega)
        (show b < t + 1 by omega) (show l ≤ 32 by omega) (Or.inr (Or.inr (Or.inr c4a))))
      (Sem.bind (tcg_gen_rotli_i32_sem T (r := r) (show l < 32 by omega)
        (show r < t + 1 by omega))
      (Sem.free t _))) (fun t ht m => ?_)
    refine Agree.of_set rfl ?_ (fun i hi hne => ?_)
    · simp (disch := omega) only [Function.comp, id, Machine.set_regs_self,
        Machine.set_regs_ne]
      apply Nat.eq_of_testBit_eq; intro i
      simp only [testBit_deposit, testBit_extract2,
        testBit_rotl 32 _ l i (show l < 32 by omega), Nat.sub_zero, Nat.zero_le,
        decide_True]
      rcases Nat.lt_or_ge i 32 with hi | hi
      · rcases Nat.lt_or_ge i l with hj | hj
        · simp (disch := omega) only [decide_eq_true, decide_eq_false, Bool.and_true,
            Bool.true_and, Bool.false_and, Bool.and_false, Bool.or_false, Bool.false_or,
            Bool.not_false, Bool.not_true]
          congr 1; omega
        · simp (disch := omega) only [decide_eq_true, decide_eq_false, Bool.and_true,
            Bool.true_and, Bool.false_and, Bool.and_false, Bool.or_false, Bool.false_or,
            Bool.not_false, Bool.not_true]
          congr 1; omega
      · simp (disch := omega) only [decide_eq_true, decide_eq_false, Bool.and_true,
          Bool.true_and, Bool.false_and, Bool.and_false, Bool.or_false, Bool.false_or]
    · simp (disch := omega) only [Function.comp, id, Machine.set_regs_ne]
  · refine Sem.new (Local.set2 r (fun x y => deposit 32 x y o l) h1 h2) (fun t ht =>
      Sem.bind (Sem.bind (tcg_gen_andi_i32_sem T (r := t) (2 ^ l - 1)
        (show b < t + 1 by omega))
        (tcg_gen_shli_i32_sem (r := t) ho (show t < t + 1 by omega)))
      (Sem.bind (tcg_gen_andi_i32_sem T (r := r) (bnot 32 ((2 ^ l - 1) <<< o))
        (show a < t + 1 by omega))
      (Sem.bind (tcg_gen_or_i32_sem (r := r) (show r < t + 1 by omega)
        (show t < t + 1 by omega))
      (Sem.free t _)))) (fun t ht m => ?_)
    refine Agree.of_set rfl ?_ (fun i hi hne => ?_)
    · simp (disch := omega) only [Function.comp, id, Machine.set_regs_self,
        Machine.set_regs_ne]
      apply Nat.eq_of_testBit_eq; intro i
      simp only [testBit_deposit, testBit_bnot, Nat.testBit_mod_two_pow, Nat.testBit_or,
        Nat.testBit_and, Nat.testBit_two_pow_sub_one,
        Nat.testBit_shiftLeft, ge_iff_le]
      rcases Nat.lt_or_ge i 32 with hi | hi
      · rcases Nat.lt_or_ge i o with hj | hj
        · simp (disch := omega) only [decide_eq_true, decide_eq_false, Bool.and_true,
            Bool.true_and, Bool.false_and, Bool.and_false, Bool.or_false, Bool.false_or,
            Bool.not_false, Bool.not_true]
        · rcases Nat.lt_or_ge (i - o) l with hk | hk
          all_goals simp (disch := omega) only [decide_eq_true, decide_eq_false,
            Bool.and_true, Bool.true_and, Bool.false_and, Bool.and_false, Bool.or_false,
            Bool.false_or, Bool.not_false, Bool.not_true]
      · simp (disch := omega) only [decide_eq_true, decide_eq_false, Bool.and_true,
          Bool.true_and, Bool.false_and, Bool.and_false, Bool.or_false, Bool.false_or]
    · simp (disch := omega) only [Function.comp, id, Machine.set_regs_ne]
  · refine Sem.new (Local.set2 r (fun x y => deposit 32 x y o l) h1 h2) (fun t ht =>
      Sem.bind (tcg_gen_shli_i32_sem (r := t) ho (show b < t + 1 by omega))
      (Sem.bind (tcg_gen_andi_i32_sem T (r := r) (bnot 32 ((2 ^ l - 1) <<< o))
        (show a < t + 1 by omega))
      (Sem.bind (tcg_gen_or_i32_sem (r := r) (show r < t + 1 by omega)
        (show t < t + 1 by omega))
      (Sem.free t _)))) (fun t ht m => ?_)
    refine Agree.of_set rfl ?_ (fun i hi hne => ?_)
    · simp (disch := omega) only [Function.comp, id, Machine.set_regs_self,
        Machine.set_regs_ne]
      apply Nat.eq_of_testBit_eq; intro i
      simp only [testBit_deposit, testBit_bnot, Nat.testBit_mod_two_pow, Nat.testBit_or,
        Nat.testBit_and, Nat.testBit_two_pow_sub_one,
        Nat.testBit_shiftLeft, ge_iff_le]
      rcases Nat.lt_or_ge i 32 with hi | hi
      · rcases Nat.lt_or_ge i o with hj | hj
        · simp (disch := omega) only [decide_eq_true, decide_eq_false, Bool.and_true,
            Bool.true_and, Bool.false_and, Bool.and_false, Bool.or_false, Bool.false_or,
            Bool.not_false, Bool.not_true]
        · rcases Nat.lt_or_ge (i - o) l with hk | hk
          all_goals simp (disch := omega) only [decide_eq_true, decide_eq_false,
            Bool.and_true, Bool.true_and, Bool.false_and, Bool.and_false, Bool.or_false,
            Bool.false_or, Bool.not_false, Bool.not_true]
      · simp (disch := omega) only [decide_eq_true, decide_eq_false, Bool.and_true,
          Bool.true_and, Bool.false_and, Bool.and_false, Bool.or_false, Bool.false_or]
    · simp (disch := omega) only [Function.comp, id, Machine.set_regs_ne]

theorem Sem.new2c {body : TCGv_i32 → TCGv_i32 → TCGv_i32 → Gen Unit} {n : Nat}
    {F : Nat → Machine → Machine} {F' : Machine → Machine} (c : Nat) (hL : Local n F')
    (h : ∀ t, n ≤ t → Sem (body t (t + 1) (t + 2)) (t + 3) (F t))
    (hF : ∀ t, n ≤ t → ∀ m, Agree t (F t (m.set (t + 2) (c % 2 ^ 32))) (F' m)) :
    Sem (tcg_temp_new_i32 >>= fun t0 => tcg_temp_new_i32 >>= fun t1 =>
      tcg_const_i32 c >>= fun t2 => body t0 t1 t2) n F' := by
  refine ⟨hL, fun s hs => ?_⟩
  obtain ⟨δ, k, e, r⟩ := (h s.nb_temps hs).2
    { s with nb_temps := s.nb_temps + 3,
             ops := s.ops ++ [⟨.movi_i32, [s.nb_temps + 2, c]⟩] } (le_refl _)
  refine ⟨⟨.movi_i32, [s.nb_temps + 2, c]⟩ :: δ, 3 + k, ?_, fun m => ?_⟩
  · rw [Gen.bind_apply]
    simp only [tcg_temp_new_i32, Gen.andThen_some]
    rw [Gen.bind_apply]
    simp only [tcg_temp_new_i32, Gen.andThen_some]
    rw [Gen.bind_apply]
    have : ∀ s' : TCGContext, tcg_const_i32 c s' = (some s'.nb_temps,
        { s' with nb_temps := s'.nb_temps + 1,
                  ops := s'.ops ++ [⟨.movi_i32, [s'.nb_temps, c]⟩] }) := fun _ => rfl
    rw [this]
    simp only [Gen.andThen_some]
    rw [show s.nb_temps + 1 + 1 = s.nb_temps + 2 by omega,
      show s.nb_temps + 2 + 1 = s.nb_temps + 3 by omega, e]
    simp [TCGContext.extend, Nat.add_assoc]
  · rw [run_cons]
    exact ((r _).mono (Nat.le_add_right _ 3)).trans (hF _ hs m)

theorem testBit_byte (x k i : Nat) :
    (byte x k).testBit i = (decide (i < 8) && x.testBit (8 * k + i)) := by
  unfold byte
  rw [show (256 : Nat) = 2 ^ 8 by rfl]
  simp only [Nat.testBit_mod_two_pow, Nat.testBit_shiftRight]

theorem tcg_gen_bswap16_i32_sem (T : TCGTarget) {r a n : Nat} (h1 : a < n)
    (hr : r < n) :
    Sem (tcg_gen_bswap16_i32 T r a) n
      (fun m => m.set r (if T.TCG_TARGET_HAS_bswap16_i32 then bswap16 (m.regs a % 2 ^ 32)
        else ((m.regs a % 2 ^ 32) >>> 8) ||| ((m.regs a % 2 ^ 8) <<< 8))) := by
  unfold tcg_gen_bswap16_i32
  split_ifs with c
  · exact Sem.op1 .bswap16_i32 (fun x => bswap16 (x % 2 ^ 32)) (fun _ => rfl) h1
  · refine Sem.new (Local.set1 r
      (fun x => ((x % 2 ^ 32) >>> 8) ||| ((x % 2 ^ 8) <<< 8)) h1) (fun t ht =>
      Sem.bind (tcg_gen_ext8u_i32_sem T (r := t) (show a < t + 1 by omega))
      (Sem.bind (tcg_gen_shli_i32_sem (r := t) (show 8 < 32 by omega)
        (show t < t + 1 by omega))
      (Sem.bind (tcg_gen_shri_i32_sem (r := r) (show 8 < 32 by omega)
        (show a < t + 1 by omega))
      (Sem.bind (tcg_gen_or_i32_sem (r := r) (show r < t + 1 by omega)
        (show t < t + 1 by omega))
      (Sem.free t _))))) (fun t ht m => ?_)
    refine Agree.of_set rfl ?_ (fun i hi hne => ?_)
    · simp (disch := omega) only [Function.comp, id, Machine.set_regs_self,
        Machine.set_regs_ne]
      apply Nat.eq_of_testBit_eq; intro i
      simp only [Nat.testBit_mod_two_pow, Nat.testBit_or, Nat.testBit_shiftRight,
        Nat.testBit_shiftLeft, ge_iff_le]
      rcases Nat.lt_or_ge i 8 with hi | hi
      · simp (disch := omega) only [decide_eq_true, decide_eq_false, Bool.and_true,
          Bool.true_and, Bool.false_and, Bool.and_false, Bool.or_false, Bool.false_or]
      · rcases Nat.lt_or_ge i 16 with hj | hj
        · simp (disch := omega) only [decide_eq_true, decide_eq_false, Bool.and_true,
            Bool.true_and, Bool.false_and, Bool.and_false, Bool.or_false, Bool.false_or]
        · rcases Nat.lt_or_ge i 24 with hk | hk
          all_goals simp (disch := omega) only [decide_eq_true, decide_eq_false,
            Bool.and_true, Bool.true_and, Bool.false_and, Bool.and_false, Bool.or_false,
            Bool.false_or]
    · simp (disch := omega) only [Function.comp, id, Machine.set_regs_ne]

theorem testBit_bswap32 (x i : Nat) :
    (bswap32 x).testBit i =
      ((decide (24 ≤ i) && (decide (i < 32) && x.testBit (i - 24))) ||
       (decide (16 ≤ i) && (decide (i < 24) && x.testBit (i - 8))) ||
       (decide (8 ≤ i) && (decide (i < 16) && x.testBit (i + 8))) ||
       (decide (i < 8) && x.testBit (i + 24))) := by
  unfold bswap32
  simp only [Nat.testBit_or, Nat.testBit_shiftLeft, testBit_byte, ge_iff_le]
  rcases Nat.lt_or_ge i 8 with h1 | h1
  · simp (disch := omega) only [decide_eq_true, decide_eq_false, Bool.and_true,
      Bool.true_and, Bool.false_and, Bool.and_false, Bool.or_false, Bool.false_or]
    congr 1; omega
  · rcases Nat.lt_or_ge i 16 with h2 | h2
    · simp (disch := omega) only [decide_eq_true, decide_eq_false, Bool.and_true,
        Bool.true_and, Bool.false_and, Bool.and_false, Bool.or_false, Bool.false_or]
      congr 1; omega
    · rcases Nat.lt_or_ge i 24 with h3 | h3
      · simp (disch := omega) only [decide_eq_true, decide_eq_false, Bool.and_true,
          Bool.true_and, Bool.false_and, Bool.and_false, Bool.or_false, Bool.false_or]
        congr 1; omega
      · rcases Nat.lt_or_ge i 32 with h4 | h4
        · simp (disch := omega) only [decide_eq_true, decide_eq_false, Bool.and_true,
            Bool.true_and, Bool.false_and, Bool.and_false, Bool.or_false, Bool.false_or]
          congr 1; omega
        · simp (disch := omega) only [decide_eq_true, decide_eq_false, Bool.and_true,
            Bool.true_and, Bool.false_and, Bool.and_false, Bool.or_false, Bool.false_or]

theorem bswap32_mod (x : Nat) : bswap32 (x % 2 ^ 32) = bswap32 x := by
  apply Nat.eq_of_testBit_eq; intro i
  simp only [testBit_bswap32, Nat.testBit_mod_two_pow]
  rcases Nat.lt_or_ge i 8 with h1 | h1
  · simp (disch := omega) only [decide_eq_true, decide_eq_false, Bool.and_true,
      Bool.true_and, Bool.false_and, Bool.and_false, Bool.or_false, Bool.false_or]
  · rcases Nat.lt_or_ge i 16 with h2 | h2
    · simp (disch := omega) only [decide_eq_true, decide_eq_false, Bool.and_true,
        Bool.true_and, Bool.false_and, Bool.and_false, Bool.or_false, Bool.false_or]
    · rcases Nat.lt_or_ge i 24 with h3 | h3
      · simp (disch := omega) only [decide_eq_true, decide_eq_false, Bool.and_true,
          Bool.true_and, Bool.false_and, Bool.and_false, Bool.or_false, Bool.false_or]
      · rcases Nat.lt_or_ge i 32 with h4 | h4
        all_goals simp (disch := omega) only [decide_eq_true, decide_eq_false, Bool.and_true,
          Bool.true_and, Bool.false_and, Bool.and_false, Bool.or_false, Bool.false_or]

theorem tcg_gen_bswap32_i32_sem (T : TCGTarget) {r a n : Nat} (h1 : a < n)
    (hr : r < n) :
    Sem (tcg_gen_bswap32_i32 T r a) n (fun m => m.set r (bswap32 (m.regs a))) := by
  unfold tcg_gen_bswap32_i32
  split_ifs with c
  · refine (Sem.op1 .bswap32_i32 (fun x => bswap32 (x % 2 ^ 32)) (fun _ => rfl) h1).conseq
      (fun N _ m => Agree.set (Agree.refl _ _) _ (bswap32_mod _))
  · refine Sem.new2c 0x00ff00ff (Local.set1 r (fun x => bswap32 x) h1) (fun t ht =>
      Sem.bind (tcg_gen_shri_i32_sem (r := t) (show 8 < 32 by omega)
        (show a < t + 3 by omega))
      (Sem.bind (tcg_gen_and_i32_sem (r := t + 1) (show a < t + 3 by omega)
        (show t + 2 < t + 3 by omega))
      (Sem.bind (tcg_gen_and_i32_sem (r := t) (show t < t + 3 by omega)
        (show t + 2 < t + 3 by omega))
      (Sem.bind (tcg_gen_shli_i32_sem (r := t + 1) (show 8 < 32 by omega)
        (show t + 1 < t + 3 by omega))
      (Sem.bind (tcg_gen_or_i32_sem (r := r) (show t < t + 3 by omega)
        (show t + 1 < t + 3 by omega))
      (Sem.bind (tcg_gen_shri_i32_sem (r := t) (show 16 < 32 by omega)
        (show r < t + 3 by omega))
      (Sem.bind (tcg_gen_shli_i32_sem (r := t + 1) (show 16 < 32 by omega)
        (show r < t + 3 by omega))
      (Sem.bind (tcg_gen_or_i32_sem (r := r) (show t < t + 3 by omega)
        (show t + 1 < t + 3 by omega))
      (Sem.bind (Sem.free t _) (Sem.bind (Sem.free (t + 1) _) (Sem.free (t + 2) _)))))))))))
      (fun t ht m => ?_)
    refine Agree.of_set rfl ?_ (fun i hi hne => ?_)
    · simp (disch := omega) only [Function.comp, id, Machine.set_regs_self,
        Machine.set_regs_ne]
      rw [show (16711935 : Nat) % 2 ^ 32 = (2 ^ 8 - 1) ||| ((2 ^ 8 - 1) <<< 16) by decide]
      apply Nat.eq_of_testBit_eq; intro i
      simp only [testBit_bswap32, Nat.testBit_mod_two_pow, Nat.testBit_or, Nat.testBit_and,
        Nat.testBit_shiftRight, Nat.testBit_shiftLeft, Nat.testBit_two_pow_sub_one, ge_iff_le]
      rcases Nat.lt_or_ge i 8 with h1 | h1
      · simp (disch := omega) only [decide_eq_true, decide_eq_false, Bool.and_true,
          Bool.true_and, Bool.false_and, Bool.and_false, Bool.or_false, Bool.false_or] <;> congr 1 <;> omega
      · rcases Nat.lt_or_ge i 16 with h2 | h2
        · simp (disch := omega) only [decide_eq_true, decide_eq_false, Bool.and_true,
            Bool.true_and, Bool.false_and, Bool.and_false, Bool.or_false, Bool.false_or] <;> congr 1 <;> omega
        · rcases Nat.lt_or_ge i 24 with h3 | h3
          · simp (disch := omega) only [decide_eq_true, decide_eq_false, Bool.and_true,
              Bool.true_and, Bool.false_and, Bool.and_false, Bool.or_false, Bool.false_or] <;> congr 1 <;> omega
          · rcases Nat.lt_or_ge i 32 with h4 | h4
            · simp (disch := omega) only [decide_eq_true, decide_eq_false, Bool.and_true,
                Bool.true_and, Bool.false_and, Bool.and_false, Bool.or_false, Bool.false_or] <;> congr 1 <;> omega
            · simp (disch := omega) only [decide_eq_true, decide_eq_false, Bool.and_true,
                Bool.true_and, Bool.false_and, Bool.and_false, Bool.or_false, Bool.false_or]
    · simp (disch := omega) only [Function.comp, id, Machine.set_regs_ne]
theorem w64_pos (T : TCGTarget) : 1 ≤ T.w64 := by
  unfold TCGTarget.w64; split <;> omega

theorem w64_le (T : TCGTarget) : T.w64 ≤ 2 := by
  unfold TCGTarget.w64; split <;> omega

theorem testBit_pair64 (lo hi i : Nat) :
    (pair64 lo hi).testBit i =
      ((decide (i < 32) && lo.testBit i) ||
        (decide (32 ≤ i) && (decide (i - 32 < 32) && hi.testBit (i - 32)))) := by
  unfold pair64
  simp only [Nat.testBit_or, Nat.testBit_mod_two_pow, Nat.testBit_shiftLeft, ge_iff_le]

theorem pair64_lt (lo hi : Nat) : pair64 lo hi < 2 ^ 64 := by
  apply Nat.lt_pow_two_of_testBit
  intro i hi'
  rw [testBit_pair64]
  simp (disch := omega) only [decide_eq_true, decide_eq_false, Bool.and_true,
    Bool.true_and, Bool.false_and, Bool.and_false, Bool.or_false, Bool.false_or]

theorem pair64_split (v : Nat) : pair64 (v % 2 ^ 32) ((v >>> 32) % 2 ^ 32) = v % 2 ^ 64 := by
  apply Nat.eq_of_testBit_eq; intro i
  simp only [testBit_pair64, Nat.testBit_mod_two_pow, Nat.testBit_shiftRight]
  rcases Nat.lt_or_ge i 32 with h | h
  · simp (disch := omega) only [decide_eq_true, decide_eq_false, Bool.and_true,
      Bool.true_and, Bool.false_and, Bool.and_false, Bool.or_false, Bool.false_or]
  · rcases Nat.lt_or_ge i 64 with h' | h'
    · simp (disch := omega) only [decide_eq_true, decide_eq_false, Bool.and_true,
        Bool.true_and, Bool.false_and, Bool.and_false, Bool.or_false, Bool.false_or]
      congr 1; omega
    · simp (disch := omega) only [decide_eq_true, decide_eq_false, Bool.and_true,
        Bool.true_and, Bool.false_and, Bool.and_false, Bool.or_false, Bool.false_or]

theorem pair64_low (lo hi : Nat) : pair64 lo hi % 2 ^ 32 = lo % 2 ^ 32 := by
  apply Nat.eq_of_testBit_eq; intro i
  simp only [testBit_pair64, Nat.testBit_mod_two_pow]
  rcases Nat.lt_or_ge i 32 with h | h
  all_goals simp (disch := omega) only [decide_eq_true, decide_eq_false, Bool.and_true,
      Bool.true_and, Bool.false_and, Bool.and_false, Bool.or_false, Bool.false_or, Bool.and_self]

theorem pair64_high (lo hi : Nat) : (pair64 lo hi >>> 32) % 2 ^ 32 = hi % 2 ^ 32 := by
  apply Nat.eq_of_testBit_eq; intro i
  simp only [testBit_pair64, Nat.testBit_mod_two_pow, Nat.testBit_shiftRight]
  rcases Nat.lt_or_ge i 32 with h | h
  · simp (disch := omega) only [decide_eq_true, decide_eq_false, Bool.and_true,
      Bool.true_and, Bool.false_and, Bool.and_false, Bool.or_false, Bool.false_or, Bool.and_self]
    congr 1; omega
  · simp (disch := omega) only [decide_eq_true, decide_eq_false, Bool.and_true,
      Bool.true_and, Bool.false_and, Bool.and_false, Bool.or_false, Bool.false_or, Bool.and_self]

theorem Machine.get64_lt (T : TCGTarget) (m : Machine) (t : Nat) : m.get64 T t < 2 ^ 64 := by
  unfold Machine.get64
  split
  · exact Nat.mod_lt _ (by norm_num)
  · exact pair64_lt _ _

@[simp] theorem Machine.set64_mem (T : TCGTarget) (m : Machine) (t v : Nat) :
    (m.set64 T t v).mem = m.mem := by
  unfold Machine.set64 Machine.setPair; split <;> rfl

theorem Machine.set64_regs_ne (T : TCGTarget) (m : Machine) {t i : Nat} (v : Nat)
    (h : i < t ∨ t + T.w64 ≤ i) : (m.set64 T t v).regs i = m.regs i := by
  unfold Machine.set64 Machine.setPair TCGV_LOW TCGV_HIGH
  unfold TCGTarget.w64 at h
  split <;> rename_i hT
  · rw [if_pos hT] at h
    exact Machine.set_regs_ne _ _ (by omega)
  · rw [if_neg hT] at h
    rw [Machine.set_regs_ne _ _ (by omega), Machine.set_regs_ne _ _ (by omega)]

theorem Machine.get64_set64_self (T : TCGTarget) (m : Machine) (t v : Nat) :
    (m.set64 T t v).get64 T t = v % 2 ^ 64 := by
  unfold Machine.set64 Machine.get64 Machine.setPair TCGV_LOW TCGV_HIGH
  split
  · rw [Machine.set_regs_self, Nat.mod_mod]
  · rw [Machine.set_regs_self, Machine.set_regs_ne _ _ (by omega), Machine.set_regs_self]
    exact pair64_split v

theorem Machine.get64_congr (T : TCGTarget) {m m' : Machine} {t : Nat}
    (h : ∀ i, t ≤ i → i < t + T.w64 → m.regs i = m'.regs i) : m.get64 T t = m'.get64 T t := by
  unfold Machine.get64 TCGV_LOW TCGV_HIGH
  unfold TCGTarget.w64 at h
  split <;> rename_i hT
  · rw [if_pos hT] at h
    rw [h t (by omega) (by omega)]
  · rw [if_neg hT] at h
    rw [h t (by omega) (by omega), h (t + 1) (by omega) (by omega)]

theorem Machine.get64_set64_ne (T : TCGTarget) (m : Machine) {t a : Nat} (v : Nat)
    (h : a + T.w64 ≤ t ∨ t + T.w64 ≤ a) : (m.set64 T t v).get64 T a = m.get64 T a :=
  Machine.get64_congr T (fun i h1 h2 => Machine.set64_regs_ne T m v (by omega))

theorem Machine.get64_set_ne (T : TCGTarget) (m : Machine) {t a : Nat} (v : Nat)
    (h : t < a ∨ a + T.w64 ≤ t) : (m.set t v).get64 T a = m.get64 T a :=
  Machine.get64_congr T (fun i h1 h2 => Machine.set_regs_ne m v (by omega))

theorem Machine.set64_congr (T : TCGTarget) (m : Machine) (t : Nat) {v v' : Nat}
    (h : v % 2 ^ 64 = v' % 2 ^ 64) : m.set64 T t v = m.set64 T t v' := by
  unfold Machine.set64 Machine.setPair
  split
  · rw [h]
  · have e1 : v % 2 ^ 32 = v' % 2 ^ 32 := by
      have := congrArg (· % 2 ^ 32) h
      simp only [Nat.mod_mod_of_dvd _ (show 2 ^ 32 ∣ 2 ^ 64 by norm_num)] at this
      exact this
    have e2 : (v >>> 32) % 2 ^ 32 = (v' >>> 32) % 2 ^ 32 := by
      apply Nat.eq_of_testBit_eq; intro i
      have := congrArg (fun x => x.testBit (32 + i)) h
      simp only [Nat.testBit_mod_two_pow] at this
      simp only [Nat.testBit_mod_two_pow, Nat.testBit_shiftRight]
      rcases Nat.lt_or_ge i 32 with hi | hi
      · simp (disch := omega) only [decide_eq_true, Bool.true_and] at this ⊢
        exact this
      · simp (disch := omega) only [decide_eq_false, Bool.false_and]
    rw [e1, e2]

theorem Agree.set64 (T : TCGTarget) {n : Nat} {m m' : Machine} (h : Agree n m m') (t : Nat)
    {v v' : Nat} (hv : v % 2 ^ 64 = v' % 2 ^ 64) :
    Agree n (m.set64 T t v) (m'.set64 T t v') := by
  rw [Machine.set64_congr T m t hv]
  unfold Machine.set64 Machine.setPair
  split
  · exact h.set _ rfl
  · exact (h.set _ rfl).set _ rfl

theorem Agree.get64 (T : TCGTarget) {n : Nat} {m m' : Machine} (h : Agree n m m') {t : Nat}
    (ht : t + T.w64 ≤ n) : m.get64 T t = m'.get64 T t :=
  Machine.get64_congr T (fun i _ h2 => h.2 i (by omega))

theorem Local.set64_1 (T : TCGTarget) {n a : Nat} (r : Nat) (f : Nat → Nat)
    (ha : a + T.w64 ≤ n) : Local n (fun m => m.set64 T r (f (m.get64 T a))) :=
  fun N hN m m' h => by
    have e := (h.mono hN).get64 T ha
    simp only [e]
    exact h.set64 T r rfl

theorem Local.set64_2 (T : TCGTarget) {n a b : Nat} (r : Nat) (f : Nat → Nat → Nat)
    (ha : a + T.w64 ≤ n) (hb : b + T.w64 ≤ n) :
    Local n (fun m => m.set64 T r (f (m.get64 T a) (m.get64 T b))) :=
  fun N hN m m' h => by
    have e := (h.mono hN).get64 T ha
    have e' := (h.mono hN).get64 T hb
    simp only [e, e']
    exact h.set64 T r rfl

/-- The effect of a chain whose last 64-bit write is to `ret`. -/
theorem Agree.of_set64 (T : TCGTarget) {N : Nat} {M m : Machine} {r V V' : Nat}
    (hmem : M.mem = m.mem) (hV : V' % 2 ^ 64 = V % 2 ^ 64)
    (hframe : ∀ i, i < N → (i < r ∨ r + T.w64 ≤ i) → M.regs i = m.regs i) :
    Agree N (M.set64 T r V') (m.set64 T r V) := by
  rw [Machine.set64_congr T M r hV]
  refine ⟨by simp [hmem], fun i hi => ?_⟩
  by_cases h : i < r ∨ r + T.w64 ≤ i
  · rw [Machine.set64_regs_ne T _ _ h, Machine.set64_regs_ne T _ _ h]
    exact hframe i hi h
  · unfold Machine.set64 Machine.setPair TCGV_LOW TCGV_HIGH
    split
    · simp only [Machine.set_regs]
      split
      · rfl
      · rename_i hT hne
        exfalso; apply h
        have := w64_pos T
        unfold TCGTarget.w64 at this ⊢
        rw [if_pos hT] at this ⊢
        omega
    · simp only [Machine.set_regs]
      split
      · rfl
      · split
        · rfl
        · rename_i hT hne hne'
          exfalso; apply h
          unfold TCGTarget.w64
          rw [if_neg hT]
          omega
theorem w64_of_reg64 {T : TCGTarget} (hT : T.reg64 = true) : T.w64 = 1 := by
  simp [TCGTarget.w64, hT]

theorem w64_of_reg32 {T : TCGTarget} (hT : T.reg64 = false) : T.w64 = 2 := by
  simp [TCGTarget.w64, hT]

theorem Machine.get64_of_reg64 {T : TCGTarget} (hT : T.reg64 = true) (m : Machine) (t : Nat) :
    m.get64 T t = m.regs t % 2 ^ 64 := by
  simp only [Machine.get64, hT, if_true]

theorem Machine.get64_of_reg32 {T : TCGTarget} (hT : T.reg64 = false) (m : Machine) (t : Nat) :
    m.get64 T t = pair64 (m.regs t) (m.regs (t + 1)) := by
  simp only [Machine.get64, hT, TCGV_LOW, TCGV_HIGH]; rfl

theorem Machine.set64_of_reg64 {T : TCGTarget} (hT : T.reg64 = true) (m : Machine) (t v : Nat) :
    m.set64 T t v = m.set t (v % 2 ^ 64) := by
  simp only [Machine.set64, hT, if_true]

theorem Machine.set64_of_reg32 {T : TCGTarget} (hT : T.reg64 = false) (m : Machine) (t v : Nat) :
    m.set64 T t v = (m.set t (v % 2 ^ 32)).set (t + 1) ((v >>> 32) % 2 ^ 32) := by
  simp only [Machine.set64, hT, TCGV_LOW, TCGV_HIGH, Machine.setPair]; rfl

/-- On a 64-bit host a chain ending with the right value in `ret` writes the
64-bit temporary `ret`. -/
theorem Agree.of_reg64 {T : TCGTarget} (hT : T.reg64 = true) {N : Nat} {M m : Machine}
    {r V : Nat} (hmem : M.mem = m.mem) (hret : M.regs r = V % 2 ^ 64)
    (hframe : ∀ i, i < N → i ≠ r → M.regs i = m.regs i) :
    Agree N M (m.set64 T r V) := by
  rw [Machine.set64_of_reg64 hT]
  exact Agree.of_set hmem hret hframe

/-- On a 32-bit host a chain ending with the right halves in the pair of `ret`
writes the 64-bit temporary `ret`. -/
theorem Agree.of_pair {T : TCGTarget} (hT : T.reg64 = false) {N : Nat} {M m : Machine}
    {r V : Nat} (hmem : M.mem = m.mem) (hlo : M.regs r = V % 2 ^ 32)
    (hhi : M.regs (r + 1) = (V >>> 32) % 2 ^ 32)
    (hframe : ∀ i, i < N → i ≠ r → i ≠ r + 1 → M.regs i = m.regs i) :
    Agree N M (m.set64 T r V) := by
  rw [Machine.set64_of_reg32 hT]
  refine ⟨hmem, fun i hi => ?_⟩
  simp only [Machine.set_regs]
  split
  · rename_i h; rw [h, hhi]
  · split
    · rename_i h; rw [h, hlo]
    · rename_i h h'; exact hframe i hi h' h

theorem Sem.new64 (T : TCGTarget) {body : TCGv_i64 → Gen Unit} {n : Nat}
    {F : Nat → Machine → Machine} {F' : Machine → Machine}
    (h : ∀ t, n ≤ t → Sem (body t) (t + T.w64) (F t))
    (hF : ∀ t, n ≤ t → ∀ m, Agree t (F t m) (F' m)) (hL : Local n F') :
    Sem (tcg_temp_new_i64 T >>= body) n F' := by
  refine ⟨hL, fun s hs => ?_⟩
  obtain ⟨δ, k, e, r⟩ := (h s.nb_temps hs).2 { s with nb_temps := s.nb_temps + T.w64 }
    (le_refl _)
  refine ⟨δ, T.w64 + k, ?_, fun m => ?_⟩
  · rw [Gen.bind_apply]
    simp only [tcg_temp_new_i64, Gen.andThen_some, e]
    simp [TCGContext.extend, Nat.add_assoc]
  · exact ((r m).mono (Nat.le_add_right _ _)).trans (hF _ hs m)

theorem tcg_gen_movi_i64_sem (T : TCGTarget) (r c n : Nat) :
    Sem (tcg_gen_movi_i64 T r c) n (fun m => m.set64 T r c) := by
  unfold tcg_gen_movi_i64
  cases hT : T.reg64
  · simp only [Bool.false_eq_true, if_false, TCGV_LOW, TCGV_HIGH]
    refine (Sem.bind (tcg_gen_movi_i32_sem r c n)
      (tcg_gen_movi_i32_sem (r + 1) (c >>> 32) n)).conseq (fun N _ m => ?_)
    rw [Machine.set64_of_reg32 hT]
    exact Agree.refl _ _
  · simp only [if_true]
    refine (Sem.op0 .movi_i64 r c n (c % 2 ^ 64) (fun _ => rfl)).conseq (fun N _ m => ?_)
    rw [Machine.set64_of_reg64 hT]
    exact Agree.refl _ _

theorem tcg_gen_mov_i64_sem (T : TCGTarget) {r a n : Nat} (ha : a + T.w64 ≤ n)
    (hra : r = a ∨ r + T.w64 ≤ a ∨ a + T.w64 ≤ r) :
    Sem (tcg_gen_mov_i64 T r a) n (fun m => m.set64 T r (m.get64 T a)) := by
  unfold tcg_gen_mov_i64
  cases hT : T.reg64
  · have hw := w64_of_reg32 hT
    simp only [Bool.false_eq_true, if_false, TCGV_LOW, TCGV_HIGH]
    refine (Sem.bind (tcg_gen_mov_i32_sem (r := r) (a := a) (by omega))
      (tcg_gen_mov_i32_sem (r := r + 1) (a := a + 1) (by omega))).conseq
      (fun N _ m => ?_)
    refine Agree.of_pair hT rfl ?_ ?_ (fun i hi h1 h2 => ?_)
    · simp (disch := omega) only [Function.comp, Machine.set_regs_self, Machine.set_regs_ne,
        Machine.get64_of_reg32 hT, pair64_low]
    · simp (disch := omega) only [Function.comp, Machine.set_regs_self, Machine.set_regs_ne,
        Machine.get64_of_reg32 hT, pair64_high]
    · simp (disch := omega) only [Function.comp, Machine.set_regs_ne]
  · have hw := w64_of_reg64 hT
    simp only [if_true]
    refine (Sem.op1 .mov_i64 (fun x => x % 2 ^ 64) (fun _ => rfl) (by omega)).conseq
      (fun N _ m => ?_)
    refine Agree.of_reg64 hT rfl ?_ (fun i hi h1 => ?_)
    · simp only [Machine.set_regs_self, Machine.get64_of_reg64 hT, Nat.mod_mod]
    · simp (disch := omega) only [Machine.set_regs_ne]

theorem Sem.const64 (T : TCGTarget) {body : TCGv_i64 → Gen Unit} {n : Nat}
    {F : Nat → Machine → Machine} {F' : Machine → Machine} (c : Nat)
    (h : ∀ t, n ≤ t → Sem (body t) (t + T.w64) (F t))
    (hF : ∀ t, n ≤ t → ∀ m, Agree t (F t (m.set64 T t c)) (F' m)) (hL : Local n F') :
    Sem (tcg_const_i64 T c >>= body) n F' := by
  have e : (tcg_const_i64 T c >>= body) =
      (tcg_temp_new_i64 T >>= fun t => tcg_gen_movi_i64 T t c >>= fun _ => body t) := by
    funext s
    simp only [tcg_const_i64, Gen.bind_apply, tcg_temp_new_i64, Gen.andThen_some]
    rcases tcg_gen_movi_i64 T s.nb_temps c _ with ⟨_ | _, _⟩ <;> rfl
  rw [e]
  refine Sem.new64 T (fun t ht => Sem.bind (tcg_gen_movi_i64_sem T t c _) (h t ht))
    (fun t ht m => hF t ht m) hL
/-- A native two-operand 64-bit op on a 64-bit host. -/
theorem Sem.op2_64 {T : TCGTarget} (hT : T.reg64 = true) (opc : TCGOpcode) {r a b n : Nat}
    (f : Nat → Nat → Nat)
    (he : ∀ m, exec_op ⟨opc, [r, a, b]⟩ m =
      m.set r (f (m.regs a % 2 ^ 64) (m.regs b % 2 ^ 64)))
    (hf : ∀ x y, x < 2 ^ 64 → f x y < 2 ^ 64) (ha : a < n) (hb : b < n) :
    Sem (tcg_gen_op3 opc r a b) n
      (fun m => m.set64 T r (f (m.get64 T a) (m.get64 T b))) := by
  refine (Sem.op2 opc (fun x y => f (x % 2 ^ 64) (y % 2 ^ 64)) he ha hb).conseq
    (fun N _ m => ?_)
  refine Agree.of_reg64 hT rfl ?_ (fun i hi h1 => ?_)
  · simp only [Machine.set_regs_self, Machine.get64_of_reg64 hT]
    exact (Nat.mod_eq_of_lt (hf _ _ (Nat.mod_lt _ (by norm_num)))).symm
  · simp (disch := omega) only [Machine.set_regs_ne]

/-- A native one-operand 64-bit op on a 64-bit host. -/
theorem Sem.op1_64 {T : TCGTarget} (hT : T.reg64 = true) (opc : TCGOpcode) {r a n : Nat}
    (f : Nat → Nat)
    (he : ∀ m, exec_op ⟨opc, [r, a]⟩ m = m.set r (f (m.regs a % 2 ^ 64)))
    (hf : ∀ x, x < 2 ^ 64 → f x < 2 ^ 64) (ha : a < n) :
    Sem (tcg_gen_op2 opc r a) n (fun m => m.set64 T r (f (m.get64 T a))) := by
  refine (Sem.op1 opc (fun x => f (x % 2 ^ 64)) he ha).conseq (fun N _ m => ?_)
  refine Agree.of_reg64 hT rfl ?_ (fun i hi h1 => ?_)
  · simp only [Machine.set_regs_self, Machine.get64_of_reg64 hT]
    exact (Nat.mod_eq_of_lt (hf _ (Nat.mod_lt _ (by norm_num)))).symm
  · simp (disch := omega) only [Machine.set_regs_ne]

/-- A two-operand 64-bit operation done half by half on a 32-bit host. -/
theorem Sem.pairwise2 {T : TCGTarget} (hT : T.reg64 = false) {g1 : Gen Unit}
    {k : Unit → Gen Unit} {r a b n : Nat} (flo fhi f : Nat → Nat → Nat)
    (h1 : Sem g1 n (fun m => m.set r (flo (m.regs a) (m.regs b))))
    (h2 : Sem (k ()) n (fun m => m.set (r + 1) (fhi (m.regs (a + 1)) (m.regs (b + 1)))))
    (hlo : ∀ x x' y y', flo x y = f (pair64 x x') (pair64 y y') % 2 ^ 32)
    (hhi : ∀ x x' y y', fhi x' y' = (f (pair64 x x') (pair64 y y') >>> 32) % 2 ^ 32)
    (hra : r = a ∨ r + 2 ≤ a ∨ a + 2 ≤ r) (hrb : r = b ∨ r + 2 ≤ b ∨ b + 2 ≤ r) :
    Sem (g1 >>= k) n (fun m => m.set64 T r (f (m.get64 T a) (m.get64 T b))) := by
  refine (Sem.bind h1 h2).conseq (fun N _ m => ?_)
  refine Agree.of_pair hT rfl ?_ ?_ (fun i hi h1 h2 => ?_)
  · simp (disch := omega) only [Function.comp, Machine.set_regs_self, Machine.set_regs_ne,
      Machine.get64_of_reg32 hT]
    exact hlo _ _ _ _
  · simp (disch := omega) only [Function.comp, Machine.set_regs_self, Machine.set_regs_ne,
      Machine.get64_of_reg32 hT]
    exact hhi _ _ _ _
  · simp (disch := omega) only [Function.comp, Machine.set_regs_ne]

/-- A one-operand 64-bit operation done half by half on a 32-bit host. -/
theorem Sem.pairwise1 {T : TCGTarget} (hT : T.reg64 = false) {g1 : Gen Unit}
    {k : Unit → Gen Unit} {r a n : Nat} (flo fhi f : Nat → Nat)
    (h1 : Sem g1 n (fun m => m.set r (flo (m.regs a))))
    (h2 : Sem (k ()) n (fun m => m.set (r + 1) (fhi (m.regs (a + 1)))))
    (hlo : ∀ x x', flo x = f (pair64 x x') % 2 ^ 32)
    (hhi : ∀ x x', fhi x' = (f (pair64 x x') >>> 32) % 2 ^ 32)
    (hra : r = a ∨ r + 2 ≤ a ∨ a + 2 ≤ r) :
    Sem (g1 >>= k) n (fun m => m.set64 T r (f (m.get64 T a))) := by
  refine (Sem.bind h1 h2).conseq (fun N _ m => ?_)
  refine Agree.of_pair hT rfl ?_ ?_ (fun i hi h1 h2 => ?_)
  · simp (disch := omega) only [Function.comp, Machine.set_regs_self, Machine.set_regs_ne,
      Machine.get64_of_reg32 hT]
    exact hlo _ _
  · simp (disch := omega) only [Function.comp, Machine.set_regs_self, Machine.set_regs_ne,
      Machine.get64_of_reg32 hT]
    exact hhi _ _
  · simp (disch := omega) only [Function.comp, Machine.set_regs_ne]

theorem and_lt_two_pow64 (x y : Nat) (h : x < 2 ^ 64) : x &&& y < 2 ^ 64 :=
  lt_of_le_of_lt Nat.and_le_left h

theorem tcg_gen_and_i64_sem (T : TCGTarget) {r a b n : Nat} (ha : a + T.w64 ≤ n)
    (hb : b + T.w64 ≤ n) (hra : r = a ∨ r + T.w64 ≤ a ∨ a + T.w64 ≤ r)
    (hrb : r = b ∨ r + T.w64 ≤ b ∨ b + T.w64 ≤ r) :
    Sem (tcg_gen_and_i64 T r a b) n
      (fun m => m.set64 T r (m.get64 T a &&& m.get64 T b)) := by
  unfold tcg_gen_and_i64
  cases hT : T.reg64
  · have hw := w64_of_reg32 hT
    simp only [Bool.false_eq_true, if_false, TCGV_LOW, TCGV_HIGH]
    refine Sem.pairwise2 hT (fun x y => x % 2 ^ 32 &&& y % 2 ^ 32)
      (fun x y => x % 2 ^ 32 &&& y % 2 ^ 32) (fun x y => x &&& y)
      (tcg_gen_and_i32_sem (by omega) (by omega)) (tcg_gen_and_i32_sem (by omega) (by omega))
      (fun x x' y y' => ?_) (fun x x' y y' => ?_) (by omega) (by omega)
    · apply Nat.eq_of_testBit_eq; intro i
      simp only [Nat.testBit_and, Nat.testBit_mod_two_pow, testBit_pair64]
      rcases Nat.lt_or_ge i 32 with h | h
      all_goals simp (disch := omega) only [decide_eq_true, decide_eq_false, Bool.and_true,
        Bool.true_and, Bool.false_and, Bool.and_false, Bool.or_false, Bool.false_or,
        Bool.and_self, Bool.or_self, Bool.xor_self, Bool.xor_false]
    · apply Nat.eq_of_testBit_eq; intro i
      simp only [Nat.testBit_and, Nat.testBit_mod_two_pow, testBit_pair64,
        Nat.testBit_shiftRight, Nat.add_sub_cancel_left]
      rcases Nat.lt_or_ge i 32 with h | h
      all_goals simp (disch := omega) only [decide_eq_true, decide_eq_false, Bool.and_true,
        Bool.true_and, Bool.false_and, Bool.and_false, Bool.or_false, Bool.false_or,
        Bool.and_self, Bool.or_self, Bool.xor_self, Bool.xor_false]
  · have hw := w64_of_reg64 hT
    simp only [if_true]
    exact Sem.op2_64 hT .and_i64 (fun x y => x &&& y) (fun _ => rfl)
      (fun x y hx => and_lt_two_pow64 x y hx) (by omega) (by omega)

theorem tcg_gen_or_i64_sem (T : TCGTarget) {r a b n : Nat} (ha : a + T.w64 ≤ n)
    (hb : b + T.w64 ≤ n) (hra : r = a ∨ r + T.w64 ≤ a ∨ a + T.w64 ≤ r)
    (hrb : r = b ∨ r + T.w64 ≤ b ∨ b + T.w64 ≤ r) :
    Sem (tcg_gen_or_i64 T r a b) n
      (fun m => m.set64 T r (m.get64 T a ||| m.get64 T b)) := by
  unfold tcg_gen_or_i64
  cases hT : T.reg64
  · have hw := w64_of_reg32 hT
    simp only [Bool.false_eq_true, if_false, TCGV_LOW, TCGV_HIGH]
    refine Sem.pairwise2 hT (fun x y => x % 2 ^ 32 ||| y % 2 ^ 32)
      (fun x y => x % 2 ^ 32 ||| y % 2 ^ 32) (fun x y => x ||| y)
      (tcg_gen_or_i32_sem (by omega) (by omega)) (tcg_gen_or_i32_sem (by omega) (by omega))
      (fun x x' y y' => ?_) (fun x x' y y' => ?_) (by omega) (by omega)
    · apply Nat.eq_of_testBit_eq; intro i
      simp only [Nat.testBit_or, Nat.testBit_mod_two_pow, testBit_pair64]
      rcases Nat.lt_or_ge i 32 with h | h
      all_goals simp (disch := omega) only [decide_eq_true, decide_eq_false, Bool.and_true,
        Bool.true_and, Bool.false_and, Bool.and_false, Bool.or_false, Bool.false_or,
        Bool.and_self, Bool.or_self, Bool.xor_self, Bool.xor_false]
    · apply Nat.eq_of_testBit_eq; intro i
      simp only [Nat.testBit_or, Nat.testBit_mod_two_pow, testBit_pair64,
        Nat.testBit_shiftRight, Nat.add_sub_cancel_left]
      rcases Nat.lt_or_ge i 32 with h | h
      all_goals simp (disch := omega) only [decide_eq_true, decide_eq_false, Bool.and_true,
        Bool.true_and, Bool.false_and, Bool.and_false, Bool.or_false, Bool.false_or,
        Bool.and_self, Bool.or_self, Bool.xor_self, Bool.xor_false]
  · have hw := w64_of_reg64 hT
    simp only [if_true]
    refine (Sem.op2 .or_i64 (fun x y => x % 2 ^ 64 ||| y % 2 ^ 64) (fun _ => rfl)
      (by omega) (by omega)).conseq (fun N _ m => ?_)
    refine Agree.of_reg64 hT rfl ?_ (fun i hi h1 => ?_)
    · simp only [Machine.set_regs_self, Machine.get64_of_reg64 hT]
      exact (Nat.mod_eq_of_lt (Nat.or_lt_two_pow (Nat.mod_lt _ (by norm_num))
        (Nat.mod_lt _ (by norm_num)))).symm
    · simp (disch := omega) only [Machine.set_regs_ne]

theorem tcg_gen_xor_i64_sem (T : TCGTarget) {r a b n : Nat} (ha : a + T.w64 ≤ n)
    (hb : b + T.w64 ≤ n) (hra : r = a ∨ r + T.w64 ≤ a ∨ a + T.w64 ≤ r)
    (hrb : r = b ∨ r + T.w64 ≤ b ∨ b + T.w64 ≤ r) :
    Sem (tcg_gen_xor_i64 T r a b) n
      (fun m => m.set64 T r (m.get64 T a ^^^ m.get64 T b)) := by
  unfold tcg_gen_xor_i64
  cases hT : T.reg64
  · have hw := w64_of_reg32 hT
    simp only [Bool.false_eq_true, if_false, TCGV_LOW, TCGV_HIGH]
    refine Sem.pairwise2 hT (fun x y => x % 2 ^ 32 ^^^ y % 2 ^ 32)
      (fun x y => x % 2 ^ 32 ^^^ y % 2 ^ 32) (fun x y => x ^^^ y)
      (tcg_gen_xor_i32_sem (by omega) (by omega)) (tcg_gen_xor_i32_sem (by omega) (by omega))
      (fun x x' y y' => ?_) (fun x x' y y' => ?_) (by omega) (by omega)
    · apply Nat.eq_of_testBit_eq; intro i
      simp only [Nat.testBit_xor, Nat.testBit_mod_two_pow, testBit_pair64]
      rcases Nat.lt_or_ge i 32 with h | h
      all_goals simp (disch := omega) only [decide_eq_true, decide_eq_false, Bool.and_true,
        Bool.true_and, Bool.false_and, Bool.and_false, Bool.or_false, Bool.false_or,
        Bool.and_self, Bool.or_self, Bool.xor_self, Bool.xor_false]
    · apply Nat.eq_of_testBit_eq; intro i
      simp only [Nat.testBit_xor, Nat.testBit_mod_two_pow, testBit_pair64,
        Nat.testBit_shiftRight, Nat.add_sub_cancel_left]
      rcases Nat.lt_or_ge i 32 with h | h
      all_goals simp (disch := omega) only [decide_eq_true, decide_eq_false, Bool.and_true,
        Bool.true_and, Bool.false_and, Bool.and_false, Bool.or_false, Bool.false_or,
        Bool.and_self, Bool.or_self, Bool.xor_self, Bool.xor_false]
  · have hw := w64_of_reg64 hT
    simp only [if_true]
    refine (Sem.op2 .xor_i64 (fun x y => x % 2 ^ 64 ^^^ y % 2 ^ 64) (fun _ => rfl)
      (by omega) (by omega)).conseq (fun N _ m => ?_)
    refine Agree.of_reg64 hT rfl ?_ (fun i hi h1 => ?_)
    · simp only [Machine.set_regs_self, Machine.get64_of_reg64 hT]
      exact (Nat.mod_eq_of_lt (Nat.xor_lt_two_pow (Nat.mod_lt _ (by norm_num))
        (Nat.mod_lt _ (by norm_num)))).symm
    · simp (disch := omega) only [Machine.set_regs_ne]
theorem sar64_zero (x : Nat) (hx : x < 2 ^ 64) : sar 64 x 0 = x := by
  apply Nat.eq_of_testBit_eq; intro i
  simp only [testBit_sar]
  rcases Nat.lt_or_ge i 64 with h | h
  · simp (disch := omega) only [decide_eq_true, decide_eq_false, Bool.and_true,
      Bool.true_and, Bool.false_and, Bool.and_false, Bool.or_false, Bool.false_or,
      Nat.zero_add]
  · simp (disch := omega) only [decide_eq_true, decide_eq_false, Bool.and_true,
      Bool.true_and, Bool.false_and, Bool.and_false, Bool.or_false, Bool.false_or]
    exact (Nat.testBit_lt_two_pow (lt_of_lt_of_le hx (Nat.pow_le_pow_right (by norm_num) h))).symm

theorem shift64_zero (r a : Bool) (x : Nat) (hx : x < 2 ^ 64) : shift64 r a x 0 = x := by
  unfold shift64
  cases r <;> cases a <;> simp only [Bool.false_eq_true, if_false, if_true, Nat.shiftLeft_zero,
    Nat.shiftRight_zero, Nat.mod_eq_of_lt hx, sar64_zero x hx]

theorem sar64_pair_ge_lo (lo hi c : Nat) (h1 : 32 ≤ c) (h2 : c < 64) :
    sar 64 (pair64 lo hi) c % 2 ^ 32 = sar 32 (hi % 2 ^ 32) (c - 32) := by
  apply Nat.eq_of_testBit_eq; intro i
  simp only [testBit_sar, Nat.testBit_mod_two_pow, testBit_pair64]
  rcases Nat.lt_or_ge i 32 with h | h
  · rcases Nat.lt_or_ge (c + i) 64 with h' | h'
    · simp (disch := omega) only [decide_eq_true, decide_eq_false, Bool.and_true,
        Bool.true_and, Bool.false_and, Bool.and_false, Bool.or_false, Bool.false_or]
      congr 1; omega
    · simp (disch := omega) only [decide_eq_true, decide_eq_false, Bool.and_true,
        Bool.true_and, Bool.false_and, Bool.and_false, Bool.or_false, Bool.false_or]
  · simp (disch := omega) only [decide_eq_true, decide_eq_false, Bool.and_true,
      Bool.true_and, Bool.false_and, Bool.and_false, Bool.or_false, Bool.false_or]

theorem sar64_pair_ge_hi (lo hi c : Nat) (h1 : 32 ≤ c) (h2 : c < 64) :
    (sar 64 (pair64 lo hi) c >>> 32) % 2 ^ 32 = sar 32 (hi % 2 ^ 32) 31 := by
  apply Nat.eq_of_testBit_eq; intro i
  simp only [testBit_sar, Nat.testBit_mod_two_pow, testBit_pair64, Nat.testBit_shiftRight]
  rcases Nat.lt_or_ge i 32 with h | h
  · rcases Nat.eq_or_lt_of_le (Nat.zero_le i) with h' | h'
    · subst h'
      simp (disch := omega) only [decide_eq_true, decide_eq_false, Bool.and_true,
        Bool.true_and, Bool.false_and, Bool.and_false, Bool.or_false, Bool.false_or, Bool.or_self]
    · simp (disch := omega) only [decide_eq_true, decide_eq_false, Bool.and_true,
        Bool.true_and, Bool.false_and, Bool.and_false, Bool.or_false, Bool.false_or]
  · simp (disch := omega) only [decide_eq_true, decide_eq_false, Bool.and_true,
      Bool.true_and, Bool.false_and, Bool.and_false, Bool.or_false, Bool.false_or]
theorem shr64_pair_ge_lo (lo hi c : Nat) (h1 : 32 ≤ c) (h2 : c < 64) :
    (pair64 lo hi >>> c) % 2 ^ 32 = (hi % 2 ^ 32) >>> (c - 32) := by
  apply Nat.eq_of_testBit_eq; intro i
  simp only [Nat.testBit_mod_two_pow, testBit_pair64, Nat.testBit_shiftRight]
  rcases Nat.lt_or_ge (c + i) 64 with h' | h'
  · simp (disch := omega) only [decide_eq_true, decide_eq_false, Bool.and_true,
      Bool.true_and, Bool.false_and, Bool.and_false, Bool.or_false, Bool.false_or]
    congr 1; omega
  · simp (disch := omega) only [decide_eq_true, decide_eq_false, Bool.and_true,
      Bool.true_and, Bool.false_and, Bool.and_false, Bool.or_false, Bool.false_or]

theorem shr64_pair_ge_hi (lo hi c : Nat) (h1 : 32 ≤ c) :
    ((pair64 lo hi >>> c) >>> 32) % 2 ^ 32 = 0 % 2 ^ 32 := by
  apply Nat.eq_of_testBit_eq; intro i
  simp only [Nat.testBit_mod_two_pow, testBit_pair64, Nat.testBit_shiftRight, Nat.zero_testBit]
  simp (disch := omega) only [decide_eq_true, decide_eq_false, Bool.and_true,
    Bool.true_and, Bool.false_and, Bool.and_false, Bool.or_false, Bool.false_or]

theorem shl64_pair_ge_lo (lo hi c : Nat) (h1 : 32 ≤ c) :
    ((pair64 lo hi <<< c) % 2 ^ 64) % 2 ^ 32 = 0 % 2 ^ 32 := by
  apply Nat.eq_of_testBit_eq; intro i
  simp only [Nat.testBit_mod_two_pow, testBit_pair64, Nat.testBit_shiftLeft, Nat.zero_testBit,
    ge_iff_le]
  rcases Nat.lt_or_ge i 32 with h | h
  all_goals simp (disch := omega) only [decide_eq_true, decide_eq_false, Bool.and_true,
    Bool.true_and, Bool.false_and, Bool.and_false, Bool.or_false, Bool.false_or]

theorem shl64_pair_ge_hi (lo hi c : Nat) (h1 : 32 ≤ c) (h2 : c < 64) :
    (((pair64 lo hi <<< c) % 2 ^ 64) >>> 32) % 2 ^ 32 = ((lo % 2 ^ 32) <<< (c - 32)) % 2 ^ 32 := by
  apply Nat.eq_of_testBit_eq; intro i
  simp only [Nat.testBit_mod_two_pow, testBit_pair64, Nat.testBit_shiftLeft,
    Nat.testBit_shiftRight, ge_iff_le]
  rcases Nat.lt_or_ge i 32 with h | h
  · rcases Nat.lt_or_ge (32 + i) c with h' | h'
    · simp (disch := omega) only [decide_eq_true, decide_eq_false, Bool.and_true,
        Bool.true_and, Bool.false_and, Bool.and_false, Bool.or_false, Bool.false_or]
    · simp (disch := omega) only [decide_eq_true, decide_eq_false, Bool.and_true,
        Bool.true_and, Bool.false_and, Bool.and_false, Bool.or_false, Bool.false_or]
      congr 1; omega
  · simp (disch := omega) only [decide_eq_true, decide_eq_false, Bool.and_true,
      Bool.true_and, Bool.false_and, Bool.and_false, Bool.or_false, Bool.false_or]

theorem shr64_pair_lt_lo (lo hi c : Nat) (h2 : c < 32) :
    (pair64 lo hi >>> c) % 2 ^ 32 = extract2 32 lo hi c := by
  apply Nat.eq_of_testBit_eq; intro i
  simp only [Nat.testBit_mod_two_pow, testBit_pair64, Nat.testBit_shiftRight, testBit_extract2]

theorem sar64_pair_lt_lo (lo hi c : Nat) (h1 : 0 < c) (h2 : c < 32) :
    sar 64 (pair64 lo hi) c % 2 ^ 32 = extract2 32 lo hi c := by
  apply Nat.eq_of_testBit_eq; intro i
  simp only [Nat.testBit_mod_two_pow, testBit_pair64, testBit_sar, testBit_extract2]
  rcases Nat.lt_or_ge i 32 with h | h
  · rcases Nat.lt_or_ge (c + i) 32 with h' | h'
    all_goals simp (disch := omega) only [decide_eq_true, decide_eq_false, Bool.and_true,
        Bool.true_and, Bool.false_and, Bool.and_false, Bool.or_false, Bool.false_or]
  · simp (disch := omega) only [decide_eq_true, decide_eq_false, Bool.and_true,
      Bool.true_and, Bool.false_and, Bool.and_false, Bool.or_false, Bool.false_or]

theorem extract2_eq_deposit_shr (lo hi c : Nat) (h1 : 0 < c) (h2 : c < 32) :
    deposit 32 ((lo % 2 ^ 32) >>> c) hi (32 - c) c = extract2 32 lo hi c := by
  apply Nat.eq_of_testBit_eq; intro i
  simp only [Nat.testBit_mod_two_pow, Nat.testBit_shiftRight, testBit_extract2, testBit_deposit]
  rcases Nat.lt_or_ge i 32 with h | h
  · rcases Nat.lt_or_ge (c + i) 32 with h' | h'
    · simp (disch := omega) only [decide_eq_true, decide_eq_false, Bool.and_true,
        Bool.true_and, Bool.false_and, Bool.and_false, Bool.or_false, Bool.false_or,
        Bool.not_true, Bool.not_false]
    · simp (disch := omega) only [decide_eq_true, decide_eq_false, Bool.and_true,
        Bool.true_and, Bool.false_and, Bool.and_false, Bool.or_false, Bool.false_or,
        Bool.not_true, Bool.not_false]
      congr 1; omega
  · simp (disch := omega) only [decide_eq_true, decide_eq_false, Bool.and_true,
      Bool.true_and, Bool.false_and, Bool.and_false, Bool.or_false, Bool.false_or]

theorem shr64_pair_lt_hi (lo hi c : Nat) (h2 : c < 32) :
    ((pair64 lo hi >>> c) >>> 32) % 2 ^ 32 = (hi % 2 ^ 32) >>> c := by
  apply Nat.eq_of_testBit_eq; intro i
  simp only [Nat.testBit_mod_two_pow, testBit_pair64, Nat.testBit_shiftRight]
  rcases Nat.lt_or_ge (c + i) 32 with h' | h'
  · simp (disch := omega) only [decide_eq_true, decide_eq_false, Bool.and_true,
      Bool.true_and, Bool.false_and, Bool.and_false, Bool.or_false, Bool.false_or]
    congr 1; omega
  · simp (disch := omega) only [decide_eq_true, decide_eq_false, Bool.and_true,
      Bool.true_and, Bool.false_and, Bool.and_false, Bool.or_false, Bool.false_or]

theorem sar64_pair_lt_hi (lo hi c : Nat) (h2 : c < 32) :
    (sar 64 (pair64 lo hi) c >>> 32) % 2 ^ 32 = sar 32 (hi % 2 ^ 32) c := by
  apply Nat.eq_of_testBit_eq; intro i
  simp only [Nat.testBit_mod_two_pow, testBit_pair64, Nat.testBit_shiftRight, testBit_sar]
  rcases Nat.lt_or_ge i 32 with h | h
  · rcases Nat.lt_or_ge (c + i) 32 with h' | h'
    · simp (disch := omega) only [decide_eq_true, decide_eq_false, Bool.and_true,
        Bool.true_and, Bool.false_and, Bool.and_false, Bool.or_false, Bool.false_or]
      congr 1; omega
    · simp (disch := omega) only [decide_eq_true, decide_eq_false, Bool.and_true,
        Bool.true_and, Bool.false_and, Bool.and_false, Bool.or_false, Bool.false_or]
  · simp (disch := omega) only [decide_eq_true, decide_eq_false, Bool.and_true,
      Bool.true_and, Bool.false_and, Bool.and_false, Bool.or_false, Bool.false_or]

theorem shl64_pair_lt_lo (lo hi c : Nat) :
    ((pair64 lo hi <<< c) % 2 ^ 64) % 2 ^ 32 = ((lo % 2 ^ 32) <<< c) % 2 ^ 32 := by
  apply Nat.eq_of_testBit_eq; intro i
  simp only [Nat.testBit_mod_two_pow, testBit_pair64, Nat.testBit_shiftLeft, ge_iff_le]
  rcases Nat.lt_or_ge i 32 with h | h
  · rcases Nat.lt_or_ge i c with h' | h'
    all_goals simp (disch := omega) only [decide_eq_true, decide_eq_false, Bool.and_true,
        Bool.true_and, Bool.false_and, Bool.and_false, Bool.or_false, Bool.false_or]
  · simp (disch := omega) only [decide_eq_true, decide_eq_false, Bool.and_true,
      Bool.true_and, Bool.false_and, Bool.and_false, Bool.or_false, Bool.false_or]

theorem shl64_pair_lt_hi (lo hi c : Nat) (h1 : 0 < c) (h2 : c < 32) :
    (((pair64 lo hi <<< c) % 2 ^ 64) >>> 32) % 2 ^ 32 = extract2 32 lo hi (32 - c) := by
  apply Nat.eq_of_testBit_eq; intro i
  simp only [Nat.testBit_mod_two_pow, testBit_pair64, Nat.testBit_shiftLeft,
    Nat.testBit_shiftRight, testBit_extract2, ge_iff_le]
  rcases Nat.lt_or_ge i 32 with h | h
  · rcases Nat.lt_or_ge i c with h' | h'
    · simp (disch := omega) only [decide_eq_true, decide_eq_false, Bool.and_true,
        Bool.true_and, Bool.false_and, Bool.and_false, Bool.or_false, Bool.false_or]
      congr 1; omega
    · simp (disch := omega) only [decide_eq_true, decide_eq_false, Bool.and_true,
        Bool.true_and, Bool.false_and, Bool.and_false, Bool.or_false, Bool.false_or]
      congr 1; omega
  · simp (disch := omega) only [decide_eq_true, decide_eq_false, Bool.and_true,
      Bool.true_and, Bool.false_and, Bool.and_false, Bool.or_false, Bool.false_or]

theorem extract2_eq_deposit_shl (lo hi c : Nat) (h1 : 0 < c) (h2 : c < 32) :
    deposit 32 ((lo % 2 ^ 32) >>> (32 - c)) hi c (32 - c) = extract2 32 lo hi (32 - c) := by
  apply Nat.eq_of_testBit_eq; intro i
  simp only [Nat.testBit_mod_two_pow, Nat.testBit_shiftRight, testBit_extract2, testBit_deposit]
  rcases Nat.lt_or_ge i 32 with h | h
  · rcases Nat.lt_or_ge i c with h' | h'
    · simp (disch := omega) only [decide_eq_true, decide_eq_false, Bool.and_true,
        Bool.true_and, Bool.false_and, Bool.and_false, Bool.or_false, Bool.false_or,
        Bool.not_true, Bool.not_false]
    · simp (disch := omega) only [decide_eq_true, decide_eq_false, Bool.and_true,
        Bool.true_and, Bool.false_and, Bool.and_false, Bool.or_false, Bool.false_or,
        Bool.not_true, Bool.not_false]
      congr 1; omega
  · simp (disch := omega) only [decide_eq_true, decide_eq_false, Bool.and_true,
      Bool.true_and, Bool.false_and, Bool.and_false, Bool.or_false, Bool.false_or]
theorem tcg_gen_shifti_i64_sem (T : TCGTarget) (hT : T.reg64 = false) {r a n c : Nat}
    (right arith : Bool) (hc : c < 64) (ha : a + 2 ≤ n) (hr : r + 2 ≤ n)
    (hra : r = a ∨ r + 2 ≤ a ∨ a + 2 ≤ r) :
    Sem (tcg_gen_shifti_i64 T r a c right arith) n
      (fun m => m.set64 T r (shift64 right arith (m.get64 T a) c)) := by
  unfold tcg_gen_shifti_i64
  refine Sem.assert (by simpa using hc) ?_
  simp only [TCGV_LOW, TCGV_HIGH, ge_iff_le]
  by_cases h0 : c = 0
  · subst h0
    simp only [if_true]
    refine (Sem.bind (tcg_gen_mov_i32_sem (r := r) (a := a) (by omega))
      (tcg_gen_mov_i32_sem (r := r + 1) (a := a + 1) (by omega))).conseq
      (fun N _ m => ?_)
    refine Agree.of_pair hT rfl ?_ ?_ (fun i hi h1 h2 => ?_)
    · simp (disch := omega) only [Function.comp, Machine.set_regs_self, Machine.set_regs_ne]
      rw [shift64_zero _ _ _ (Machine.get64_lt T m a), Machine.get64_of_reg32 hT, pair64_low]
    · simp (disch := omega) only [Function.comp, Machine.set_regs_self, Machine.set_regs_ne]
      rw [shift64_zero _ _ _ (Machine.get64_lt T m a), Machine.get64_of_reg32 hT, pair64_high]
    · simp (disch := omega) only [Function.comp, Machine.set_regs_ne]
  rw [if_neg h0]
  by_cases h32 : 32 ≤ c
  · rw [if_pos h32]
    cases right
    · simp only [Bool.false_eq_true, if_false]
      refine (Sem.bind (tcg_gen_shli_i32_sem (r := r + 1) (a := a) (b := c - 32)
        (by omega) (by omega)) (tcg_gen_movi_i32_sem r 0 n)).conseq (fun N _ m => ?_)
      refine Agree.of_pair hT rfl ?_ ?_ (fun i hi h1 h2 => ?_)
      · simp (disch := omega) only [Function.comp, Machine.set_regs_self, Machine.set_regs_ne,
          Machine.get64_of_reg32 hT, shift64, Bool.false_eq_true, if_false]
        rw [shl64_pair_ge_lo _ _ _ h32]
      · simp (disch := omega) only [Function.comp, Machine.set_regs_self, Machine.set_regs_ne,
          Machine.get64_of_reg32 hT, shift64, Bool.false_eq_true, if_false]
        rw [shl64_pair_ge_hi _ _ _ h32 hc]
      · simp (disch := omega) only [Function.comp, Machine.set_regs_ne]
    · cases arith
      · simp only [Bool.false_eq_true, if_false, if_true]
        refine (Sem.bind (tcg_gen_shri_i32_sem (r := r) (a := a + 1) (b := c - 32)
          (by omega) (by omega)) (tcg_gen_movi_i32_sem (r + 1) 0 n)).conseq (fun N _ m => ?_)
        refine Agree.of_pair hT rfl ?_ ?_ (fun i hi h1 h2 => ?_)
        · simp (disch := omega) only [Function.comp, Machine.set_regs_self, Machine.set_regs_ne,
            Machine.get64_of_reg32 hT, shift64, Bool.false_eq_true, if_false, if_true]
          rw [shr64_pair_ge_lo _ _ _ h32 hc]
        · simp (disch := omega) only [Function.comp, Machine.set_regs_self, Machine.set_regs_ne,
            Machine.get64_of_reg32 hT, shift64, Bool.false_eq_true, if_false, if_true]
          rw [shr64_pair_ge_hi _ _ _ h32]
        · simp (disch := omega) only [Function.comp, Machine.set_regs_ne]
      · simp only [if_true]
        refine (Sem.bind (tcg_gen_sari_i32_sem (r := r) (a := a + 1) (b := c - 32)
          (by omega) (by omega)) (tcg_gen_sari_i32_sem (r := r + 1) (a := a + 1)
          (b := 31) (by omega) (by omega))).conseq (fun N _ m => ?_)
        refine Agree.of_pair hT rfl ?_ ?_ (fun i hi h1 h2 => ?_)
        · simp (disch := omega) only [Function.comp, Machine.set_regs_self, Machine.set_regs_ne,
            Machine.get64_of_reg32 hT, shift64, if_true]
          rw [sar64_pair_ge_lo _ _ _ h32 hc]
        · simp (disch := omega) only [Function.comp, Machine.set_regs_self, Machine.set_regs_ne,
            Machine.get64_of_reg32 hT, shift64, if_true]
          rw [sar64_pair_ge_hi _ _ _ h32 hc]
        · simp (disch := omega) only [Function.comp, Machine.set_regs_ne]
  · rw [if_neg h32]
    have hc0 : 0 < c := Nat.pos_of_ne_zero h0
    have hc32 : c < 32 := Nat.lt_of_not_le h32
    cases right
    · simp only [Bool.false_eq_true, if_false]
      have hhi : Sem (if T.TCG_TARGET_HAS_extract2_i32 = true then
            tcg_gen_extract2_i32 T (r + 1) a (a + 1) (32 - c)
          else do
            let t0 ← tcg_temp_new_i32
            tcg_gen_shri_i32 t0 a (32 - c)
            tcg_gen_deposit_i32 T (r + 1) t0 (a + 1) c (32 - c)
            tcg_temp_free_i32 t0) n
          (fun m => m.set (r + 1) (extract2 32 (m.regs a) (m.regs (a + 1)) (32 - c))) := by
        split
        · rename_i hx
          exact tcg_gen_extract2_i32_sem_native T (by omega) (by omega) (by omega)
            (Or.inr (Or.inr (Or.inr hx)))
        · refine Sem.new (Local.set2 (r + 1) (fun x y => extract2 32 x y (32 - c))
            (by omega) (by omega)) (fun t ht => Sem.bind
            (tcg_gen_shri_i32_sem (r := t) (a := a) (b := 32 - c) (by omega) (by omega))
            (Sem.bind (tcg_gen_deposit_i32_sem T (r := r + 1) (a := t) (b := a + 1)
              (o := c) (l := 32 - c) (by omega) (by omega) (by omega) (by omega) (by omega)
              (by omega)) (Sem.free t _))) (fun t ht m => ?_)
          refine Agree.of_set rfl ?_ (fun i hi hne => ?_)
          · simp (disch := omega) only [Function.comp, id, Machine.set_regs_self,
              Machine.set_regs_ne]
            rw [extract2_eq_deposit_shl _ _ _ hc0 hc32]
          · simp (disch := omega) only [Function.comp, id, Machine.set_regs_ne]
      refine (Sem.bind hhi (tcg_gen_shli_i32_sem (r := r) (a := a) (b := c)
        (by omega) (by omega))).conseq (fun N _ m => ?_)
      refine Agree.of_pair hT rfl ?_ ?_ (fun i hi h1 h2 => ?_)
      · simp (disch := omega) only [Function.comp, Machine.set_regs_self, Machine.set_regs_ne,
          Machine.get64_of_reg32 hT, shift64, Bool.false_eq_true, if_false]
        rw [shl64_pair_lt_lo]
      · simp (disch := omega) only [Function.comp, Machine.set_regs_self, Machine.set_regs_ne,
          Machine.get64_of_reg32 hT, shift64, Bool.false_eq_true, if_false]
        rw [shl64_pair_lt_hi _ _ _ hc0 hc32]
      · simp (disch := omega) only [Function.comp, Machine.set_regs_ne]
    · simp only [if_true]
      have hlo : Sem (if T.TCG_TARGET_HAS_extract2_i32 = true then
            tcg_gen_extract2_i32 T r a (a + 1) c
          else do
            tcg_gen_shri_i32 r a c
            tcg_gen_deposit_i32 T r r (a + 1) (32 - c) c) n
          (fun m => m.set r (extract2 32 (m.regs a) (m.regs (a + 1)) c)) := by
        split
        · rename_i hx
          exact tcg_gen_extract2_i32_sem_native T (by omega) (by omega) (by omega)
            (Or.inr (Or.inr (Or.inr hx)))
        · refine (Sem.bind
            (tcg_gen_shri_i32_sem (r := r) (a := a) (b := c) (by omega) (by omega))
            (tcg_gen_deposit_i32_sem T (r := r) (a := r) (b := a + 1)
              (o := 32 - c) (l := c) (by omega) (by omega) (by omega) (by omega) (by omega)
              (by omega))).conseq (fun N _ m => ?_)
          refine Agree.of_set rfl ?_ (fun i hi hne => ?_)
          · simp (disch := omega) only [Function.comp, id, Machine.set_regs_self,
              Machine.set_regs_ne]
            rw [extract2_eq_deposit_shr _ _ _ hc0 hc32]
          · simp (disch := omega) only [Function.comp, id, Machine.set_regs_ne]
      cases arith
      · simp only [Bool.false_eq_true, if_false]
        refine (Sem.bind hlo (tcg_gen_shri_i32_sem (r := r + 1) (a := a + 1)
          (b := c) (by omega) (by omega))).conseq (fun N _ m => ?_)
        refine Agree.of_pair hT rfl ?_ ?_ (fun i hi h1 h2 => ?_)
        · simp (disch := omega) only [Function.comp, Machine.set_regs_self, Machine.set_regs_ne,
            Machine.get64_of_reg32 hT, shift64, Bool.false_eq_true, if_false, if_true]
          rw [shr64_pair_lt_lo _ _ _ hc32]
        · simp (disch := omega) only [Function.comp, Machine.set_regs_self, Machine.set_regs_ne,
            Machine.get64_of_reg32 hT, shift64, Bool.false_eq_true, if_false, if_true]
          rw [shr64_pair_lt_hi _ _ _ hc32]
        · simp (disch := omega) only [Function.comp, Machine.set_regs_ne]
      · simp only [if_true]
        refine (Sem.bind hlo (tcg_gen_sari_i32_sem (r := r + 1) (a := a + 1)
          (b := c) (by omega) (by omega))).conseq (fun N _ m => ?_)
        refine Agree.of_pair hT rfl ?_ ?_ (fun i hi h1 h2 => ?_)
        · simp (disch := omega) only [Function.comp, Machine.set_regs_self, Machine.set_regs_ne,
            Machine.get64_of_reg32 hT, shift64, if_true]
          rw [sar64_pair_lt_lo _ _ _ hc0 hc32]
        · simp (disch := omega) only [Function.comp, Machine.set_regs_self, Machine.set_regs_ne,
            Machine.get64_of_reg32 hT, shift64, if_true]
          rw [sar64_pair_lt_hi _ _ _ hc32]
        · simp (disch := omega) only [Function.comp, Machine.set_regs_ne]
theorem Sem.helper2_64 {T : TCGTarget} (hT : T.reg64 = false) (h : Helper) {r a b n : Nat}
    (f : Nat → Nat → Nat)
    (he : ∀ m, exec_op ⟨.call, [h.toCtorIdx, r, r + 1, a, a + 1, b, b + 1]⟩ m =
      m.setPair r (r + 1) (f (pair64 (m.regs a) (m.regs (a + 1)))
        (pair64 (m.regs b) (m.regs (b + 1)))))
    (ha : a + 2 ≤ n) (hb : b + 2 ≤ n) :
    Sem (gen_helper_i64 T h r a b) n
      (fun m => m.set64 T r (f (m.get64 T a) (m.get64 T b))) := by
  have hw := w64_of_reg32 hT
  have e : exec_op ⟨.call, [h.toCtorIdx, r, r + 1, a, a + 1, b, b + 1]⟩ =
      fun m => m.set64 T r (f (m.get64 T a) (m.get64 T b)) := by
    funext m
    rw [he, Machine.set64_of_reg32 hT, Machine.get64_of_reg32 hT, Machine.get64_of_reg32 hT]
    rfl
  unfold gen_helper_i64 tcg_gen_callN
  simp only [hT, Bool.false_eq_true, if_false, TCGV_LOW, TCGV_HIGH]
  rw [← e]
  exact Sem.emit _ _ _ (e ▸ Local.set64_2 T r f (by omega) (by omega))

theorem sar_lt (w x n : Nat) : sar w x n < 2 ^ w := Nat.mod_lt _ (Nat.two_pow_pos w)

theorem shr_lt_two_pow64 (x y : Nat) (h : x < 2 ^ 64) : x >>> y < 2 ^ 64 := by
  rw [Nat.shiftRight_eq_div_pow]
  exact lt_of_le_of_lt (Nat.div_le_self _ _) h

theorem tcg_gen_shl_i64_sem (T : TCGTarget) {r a b n : Nat} (ha : a + T.w64 ≤ n)
    (hb : b + T.w64 ≤ n) :
    Sem (tcg_gen_shl_i64 T r a b) n
      (fun m => m.set64 T r ((m.get64 T a <<< m.get64 T b) % 2 ^ 64)) := by
  unfold tcg_gen_shl_i64
  cases hT : T.reg64
  · have hw := w64_of_reg32 hT
    simp only [Bool.false_eq_true, if_false]
    exact Sem.helper2_64 hT .shl_i64 (fun x y => (x <<< y) % 2 ^ 64) (fun _ => rfl)
      (by omega) (by omega)
  · have hw := w64_of_reg64 hT
    simp only [if_true]
    exact Sem.op2_64 hT .shl_i64 (fun x y => (x <<< y) % 2 ^ 64) (fun _ => rfl)
      (fun x y _ => Nat.mod_lt _ (by norm_num)) (by omega) (by omega)

theorem tcg_gen_shr_i64_sem (T : TCGTarget) {r a b n : Nat} (ha : a + T.w64 ≤ n)
    (hb : b + T.w64 ≤ n) :
    Sem (tcg_gen_shr_i64 T r a b) n
      (fun m => m.set64 T r (m.get64 T a >>> m.get64 T b)) := by
  unfold tcg_gen_shr_i64
  cases hT : T.reg64
  · have hw := w64_of_reg32 hT
    simp only [Bool.false_eq_true, if_false]
    exact Sem.helper2_64 hT .shr_i64 (fun x y => x >>> y) (fun _ => rfl)
      (by omega) (by omega)
  · have hw := w64_of_reg64 hT
    simp only [if_true]
    exact Sem.op2_64 hT .shr_i64 (fun x y => x >>> y) (fun _ => rfl)
      (fun x y hx => shr_lt_two_pow64 x y hx) (by omega) (by omega)

theorem tcg_gen_sar_i64_sem (T : TCGTarget) {r a b n : Nat} (ha : a + T.w64 ≤ n)
    (hb : b + T.w64 ≤ n) :
    Sem (tcg_gen_sar_i64 T r a b) n
      (fun m => m.set64 T r (sar 64 (m.get64 T a) (m.get64 T b))) := by
  unfold tcg_gen_sar_i64
  cases hT : T.reg64
  · have hw := w64_of_reg32 hT
    simp only [Bool.false_eq_true, if_false]
    exact Sem.helper2_64 hT .sar_i64 (fun x y => sar 64 x y) (fun _ => rfl)
      (by omega) (by omega)
  · have hw := w64_of_reg64 hT
    simp only [if_true]
    exact Sem.op2_64 hT .sar_i64 (fun x y => sar 64 x y) (fun _ => rfl)
      (fun x y _ => sar_lt 64 x y) (by omega) (by omega)

/-- A 64-bit immediate operation through a constant temporary. -/
theorem Sem.imm64 (T : TCGTarget) {g : TCGv_i64 → Gen Unit} {n r a : Nat} (c : Nat)
    (f : Nat → Nat → Nat) (v : Nat → Nat) (h1 : a + T.w64 ≤ n)
    (hg : ∀ t, n ≤ t → Sem (g t) (t + T.w64)
      (fun m => m.set64 T r (f (m.get64 T a) (m.get64 T t))))
    (hv : ∀ x, f x (c % 2 ^ 64) = v x) :
    Sem (tcg_const_i64 T c >>= fun t0 => g t0 >>= fun _ => tcg_temp_free_i64 t0) n
      (fun m => m.set64 T r (v (m.get64 T a))) := by
  refine Sem.const64 T c (fun t ht => Sem.bind (hg t ht) (Sem.pure _)) (fun t ht m => ?_)
    (Local.set64_1 T r v h1)
  simp only [Function.comp, id]
  rw [Machine.get64_set64_self, Machine.get64_set64_ne T m c (by omega), hv]
  refine Agree.of_set64 T (by simp) rfl (fun i hi hne => ?_)
  exact Machine.set64_regs_ne T m c (by omega)
theorem mod64_small {c : Nat} (h : c < 64) : c % 2 ^ 64 = c :=
  Nat.mod_eq_of_lt (lt_trans h (by norm_num))

theorem tcg_gen_shli_i64_sem (T : TCGTarget) {r a n b : Nat} (h2 : b < 64)
    (h1 : a + T.w64 ≤ n) (hr : r + T.w64 ≤ n)
    (hra : r = a ∨ r + T.w64 ≤ a ∨ a + T.w64 ≤ r) :
    Sem (tcg_gen_shli_i64 T r a b) n
      (fun m => m.set64 T r ((m.get64 T a <<< b) % 2 ^ 64)) := by
  unfold tcg_gen_shli_i64
  refine Sem.assert (by simpa using h2) ?_
  cases hT : T.reg64
  · have hw := w64_of_reg32 hT
    simp only [Bool.false_eq_true, not_false_eq_true, if_true]
    exact tcg_gen_shifti_i64_sem T hT false false h2 (by omega) (by omega) (by omega)
  · simp only [not_true_eq_false, if_false]
    by_cases h0 : b = 0
    · subst h0
      simp only [if_true]
      refine (tcg_gen_mov_i64_sem T h1 hra).conseq (fun N _ m => ?_)
      rw [Nat.shiftLeft_zero, Nat.mod_eq_of_lt (Machine.get64_lt T m a)]
      exact Agree.refl _ _
    · rw [if_neg h0]
      exact Sem.imm64 T b (fun x y => (x <<< y) % 2 ^ 64) (fun x => (x <<< b) % 2 ^ 64) h1
        (fun t ht => tcg_gen_shl_i64_sem T (by omega) (by omega))
        (fun x => by simp only [mod64_small h2])

theorem tcg_gen_shri_i64_sem (T : TCGTarget) {r a n b : Nat} (h2 : b < 64)
    (h1 : a + T.w64 ≤ n) (hr : r + T.w64 ≤ n)
    (hra : r = a ∨ r + T.w64 ≤ a ∨ a + T.w64 ≤ r) :
    Sem (tcg_gen_shri_i64 T r a b) n
      (fun m => m.set64 T r (m.get64 T a >>> b)) := by
  unfold tcg_gen_shri_i64
  refine Sem.assert (by simpa using h2) ?_
  cases hT : T.reg64
  · have hw := w64_of_reg32 hT
    simp only [Bool.false_eq_true, not_false_eq_true, if_true]
    exact tcg_gen_shifti_i64_sem T hT true false h2 (by omega) (by omega) (by omega)
  · simp only [not_true_eq_false, if_false]
    by_cases h0 : b = 0
    · subst h0
      simp only [if_true]
      exact tcg_gen_mov_i64_sem T h1 hra
    · rw [if_neg h0]
      exact Sem.imm64 T b (fun x y => x >>> y) (fun x => x >>> b) h1
        (fun t ht => tcg_gen_shr_i64_sem T (by omega) (by omega))
        (fun x => by simp only [mod64_small h2])

theorem tcg_gen_sari_i64_sem (T : TCGTarget) {r a n b : Nat} (h2 : b < 64)
    (h1 : a + T.w64 ≤ n) (hr : r + T.w64 ≤ n)
    (hra : r = a ∨ r + T.w64 ≤ a ∨ a + T.w64 ≤ r) :
    Sem (tcg_gen_sari_i64 T r a b) n
      (fun m => m.set64 T r (sar 64 (m.get64 T a) b)) := by
  unfold tcg_gen_sari_i64
  refine Sem.assert (by simpa using h2) ?_
  cases hT : T.reg64
  · have hw := w64_of_reg32 hT
    simp only [Bool.false_eq_true, not_false_eq_true, if_true]
    exact tcg_gen_shifti_i64_sem T hT true true h2 (by omega) (by omega) (by omega)
  · simp only [not_true_eq_false, if_false]
    by_cases h0 : b = 0
    · subst h0
      simp only [if_true]
      refine (tcg_gen_mov_i64_sem T h1 hra).conseq (fun N _ m => ?_)
      rw [sar64_zero _ (Machine.get64_lt T m a)]
      exact Agree.refl _ _
    · rw [if_neg h0]
      exact Sem.imm64 T b (fun x y => sar 64 x y) (fun x => sar 64 x b) h1
        (fun t ht => tcg_gen_sar_i64_sem T (by omega) (by omega))
        (fun x => by simp only [mod64_small h2])

theorem and_mod64_right (x c : Nat) (hx : x < 2 ^ 64) : x &&& c % 2 ^ 64 = x &&& c := by
  apply Nat.eq_of_testBit_eq; intro i
  simp only [Nat.testBit_and, Nat.testBit_mod_two_pow]
  rcases Nat.lt_or_ge i 64 with h | h
  · simp (disch := omega) only [decide_eq_true, Bool.true_and]
  · rw [Nat.testBit_lt_two_pow (lt_of_lt_of_le hx (Nat.pow_le_pow_right (by norm_num) h))]
    simp only [Bool.false_and]

theorem and_two_pow_sub_one (x k : Nat) : x &&& (2 ^ k - 1) = x % 2 ^ k :=
  Nat.and_pow_two_sub_one_eq_mod x k

theorem tcg_gen_andi_i64_sem (T : TCGTarget) {r a n : Nat} (b : Nat)
    (h1 : a + T.w64 ≤ n)
    (hra : r = a ∨ r + T.w64 ≤ a ∨ a + T.w64 ≤ r) :
    Sem (tcg_gen_andi_i64 T r a b) n
      (fun m => m.set64 T r (m.get64 T a &&& b)) := by
  unfold tcg_gen_andi_i64
  cases hT : T.reg64
  · have hw := w64_of_reg32 hT
    simp only [Bool.false_eq_true, not_false_eq_true, if_true, TCGV_LOW, TCGV_HIGH]
    refine Sem.pairwise1 hT (fun x => x % 2 ^ 32 &&& b % 2 ^ 32 % 2 ^ 32)
      (fun x => x % 2 ^ 32 &&& (b >>> 32) % 2 ^ 32 % 2 ^ 32) (fun x => x &&& b)
      (tcg_gen_andi_i32_sem T _ (by omega)) (tcg_gen_andi_i32_sem T _ (by omega))
      (fun x x' => ?_) (fun x x' => ?_) (by omega)
    · apply Nat.eq_of_testBit_eq; intro i
      simp only [Nat.testBit_and, Nat.testBit_mod_two_pow, testBit_pair64]
      rcases Nat.lt_or_ge i 32 with h | h
      all_goals simp (disch := omega) only [decide_eq_true, decide_eq_false, Bool.and_true,
        Bool.true_and, Bool.false_and, Bool.and_false, Bool.or_false, Bool.false_or]
    · apply Nat.eq_of_testBit_eq; intro i
      simp only [Nat.testBit_and, Nat.testBit_mod_two_pow, testBit_pair64,
        Nat.testBit_shiftRight, Nat.add_sub_cancel_left]
      rcases Nat.lt_or_ge i 32 with h | h
      all_goals simp (disch := omega) only [decide_eq_true, decide_eq_false, Bool.and_true,
        Bool.true_and, Bool.false_and, Bool.and_false, Bool.or_false, Bool.false_or]
  · have hw := w64_of_reg64 hT
    simp only [not_true_eq_false, if_false]
    by_cases h0 : b = 0
    · subst h0
      simp only [if_true]
      refine (tcg_gen_movi_i64_sem T r 0 n).conseq (fun N _ m => ?_)
      rw [Nat.and_zero]
      exact Agree.refl _ _
    rw [if_neg h0]
    by_cases hf : b = 0xffffffffffffffff
    · subst hf
      simp only [if_true]
      refine (tcg_gen_mov_i64_sem T h1 hra).conseq (fun N _ m => ?_)
      rw [show (0xffffffffffffffff : Nat) = 2 ^ 64 - 1 by norm_num, and_two_pow_sub_one,
        Nat.mod_eq_of_lt (Machine.get64_lt T m a)]
      exact Agree.refl _ _
    rw [if_neg hf]
    have hconst : Sem (do
          let t0 ← tcg_const_i64 T b
          tcg_gen_and_i64 T r a t0
          tcg_temp_free_i64 t0) n (fun m => m.set64 T r (m.get64 T a &&& b)) := by
      refine (Sem.imm64 T b (fun x y => x &&& y) (fun x => x &&& b % 2 ^ 64) h1
        (fun t ht => tcg_gen_and_i64_sem T (by omega) (by omega) (by omega) (by omega))
        (fun x => rfl)).conseq (fun N _ m => ?_)
      rw [and_mod64_right _ _ (Machine.get64_lt T m a)]
      exact Agree.refl _ _
    split
    · rename_i h
      obtain ⟨rfl, _⟩ := h
      refine (Sem.op1_64 hT .ext8u_i64 (fun x => x % 2 ^ 8) (fun _ => rfl)
        (fun x hx => lt_of_le_of_lt (Nat.mod_le _ _) hx) (by omega)).conseq (fun N _ m => ?_)
      rw [show (0xff : Nat) = 2 ^ 8 - 1 by norm_num, and_two_pow_sub_one]
      exact Agree.refl _ _
    split
    · rename_i h
      obtain ⟨rfl, _⟩ := h
      refine (Sem.op1_64 hT .ext16u_i64 (fun x => x % 2 ^ 16) (fun _ => rfl)
        (fun x hx => lt_of_le_of_lt (Nat.mod_le _ _) hx) (by omega)).conseq (fun N _ m => ?_)
      rw [show (0xffff : Nat) = 2 ^ 16 - 1 by norm_num, and_two_pow_sub_one]
      exact Agree.refl _ _
    split
    · rename_i h
      obtain ⟨rfl, _⟩ := h
      refine (Sem.op1_64 hT .ext32u_i64 (fun x => x % 2 ^ 32) (fun _ => rfl)
        (fun x hx => lt_of_le_of_lt (Nat.mod_le _ _) hx) (by omega)).conseq (fun N _ m => ?_)
      rw [show (0xffffffff : Nat) = 2 ^ 32 - 1 by norm_num, and_two_pow_sub_one]
      exact Agree.refl _ _
    exact hconst
theorem pair64_mod_low (lo hi k : Nat) (hk : k ≤ 32) :
    (pair64 lo hi % 2 ^ k) % 2 ^ 32 = lo % 2 ^ k := by
  apply Nat.eq_of_testBit_eq; intro i
  simp only [Nat.testBit_mod_two_pow, testBit_pair64]
  rcases Nat.lt_or_ge i k with h | h
  all_goals simp (disch := omega) only [decide_eq_true, decide_eq_false, Bool.and_true,
    Bool.true_and, Bool.false_and, Bool.and_false, Bool.or_false, Bool.false_or]

theorem pair64_mod_high (lo hi k : Nat) (hk : k ≤ 32) :
    ((pair64 lo hi % 2 ^ k) >>> 32) % 2 ^ 32 = 0 % 2 ^ 32 := by
  apply Nat.eq_of_testBit_eq; intro i
  simp only [Nat.testBit_mod_two_pow, testBit_pair64, Nat.testBit_shiftRight, Nat.zero_testBit]
  simp (disch := omega) only [decide_eq_true, decide_eq_false, Bool.and_true,
    Bool.true_and, Bool.false_and, Bool.and_false, Bool.or_false, Bool.false_or]

/-- A zero-extension from `k ≤ 32` bits on a 32-bit host. -/
theorem Sem.extu_pair {T : TCGTarget} (hT : T.reg64 = false) {g1 : Gen Unit} {r a n k : Nat}
    (hk : k ≤ 32) (h1 : Sem g1 n (fun m => m.set r (m.regs a % 2 ^ k))) :
    Sem (g1 >>= fun _ => tcg_gen_movi_i32 (r + 1) 0) n
      (fun m => m.set64 T r (m.get64 T a % 2 ^ k)) := by
  refine (Sem.bind h1 (tcg_gen_movi_i32_sem (r + 1) 0 n)).conseq (fun N _ m => ?_)
  refine Agree.of_pair hT rfl ?_ ?_ (fun i hi h1 h2 => ?_)
  · simp (disch := omega) only [Function.comp, Machine.set_regs_self, Machine.set_regs_ne,
      Machine.get64_of_reg32 hT]
    rw [pair64_mod_low _ _ _ hk]
  · simp (disch := omega) only [Function.comp, Machine.set_regs_self, Machine.set_regs_ne,
      Machine.get64_of_reg32 hT]
    rw [pair64_mod_high _ _ _ hk]
  · simp (disch := omega) only [Function.comp, Machine.set_regs_ne]

theorem tcg_gen_ext8u_i64_sem (T : TCGTarget) {r a n : Nat} (h1 : a + T.w64 ≤ n)
    (hra : r = a ∨ r + T.w64 ≤ a ∨ a + T.w64 ≤ r) :
    Sem (tcg_gen_ext8u_i64 T r a) n (fun m => m.set64 T r (m.get64 T a % 2 ^ 8)) := by
  unfold tcg_gen_ext8u_i64
  cases hT : T.reg64
  · have hw := w64_of_reg32 hT
    simp only [Bool.false_eq_true, not_false_eq_true, if_true, TCGV_LOW, TCGV_HIGH]
    exact Sem.extu_pair hT (by norm_num) (tcg_gen_ext8u_i32_sem T (by omega))
  · have hw := w64_of_reg64 hT
    simp only [not_true_eq_false, if_false]
    split
    · exact Sem.op1_64 hT .ext8u_i64 (fun x => x % 2 ^ 8) (fun _ => rfl)
        (fun x hx => lt_of_le_of_lt (Nat.mod_le _ _) hx) (by omega)
    · refine (tcg_gen_andi_i64_sem T 0xff h1 hra).conseq (fun N _ m => ?_)
      rw [show (0xff : Nat) = 2 ^ 8 - 1 by norm_num, and_two_pow_sub_one]
      exact Agree.refl _ _

theorem tcg_gen_ext16u_i64_sem (T : TCGTarget) {r a n : Nat} (h1 : a + T.w64 ≤ n)
    (hra : r = a ∨ r + T.w64 ≤ a ∨ a + T.w64 ≤ r) :
    Sem (tcg_gen_ext16u_i64 T r a) n (fun m => m.set64 T r (m.get64 T a % 2 ^ 16)) := by
  unfold tcg_gen_ext16u_i64
  cases hT : T.reg64
  · have hw := w64_of_reg32 hT
    simp only [Bool.false_eq_true, not_false_eq_true, if_true, TCGV_LOW, TCGV_HIGH]
    exact Sem.extu_pair hT (by norm_num) (tcg_gen_ext16u_i32_sem T (by omega))
  · have hw := w64_of_reg64 hT
    simp only [not_true_eq_false, if_false]
    split
    · exact Sem.op1_64 hT .ext16u_i64 (fun x => x % 2 ^ 16) (fun _ => rfl)
        (fun x hx => lt_of_le_of_lt (Nat.mod_le _ _) hx) (by omega)
    · refine (tcg_gen_andi_i64_sem T 0xffff h1 hra).conseq (fun N _ m => ?_)
      rw [show (0xffff : Nat) = 2 ^ 16 - 1 by norm_num, and_two_pow_sub_one]
      exact Agree.refl _ _

theorem tcg_gen_ext32u_i64_sem (T : TCGTarget) {r a n : Nat} (h1 : a + T.w64 ≤ n)
    (hra : r = a ∨ r + T.w64 ≤ a ∨ a + T.w64 ≤ r) :
    Sem (tcg_gen_ext32u_i64 T r a) n (fun m => m.set64 T r (m.get64 T a % 2 ^ 32)) := by
  unfold tcg_gen_ext32u_i64
  cases hT : T.reg64
  · have hw := w64_of_reg32 hT
    simp only [Bool.false_eq_true, not_false_eq_true, if_true, TCGV_LOW, TCGV_HIGH]
    exact Sem.extu_pair hT (le_refl _) (tcg_gen_mov_i32_sem (by omega))
  · have hw := w64_of_reg64 hT
    simp only [not_true_eq_false, if_false]
    split
    · exact Sem.op1_64 hT .ext32u_i64 (fun x => x % 2 ^ 32) (fun _ => rfl)
        (fun x hx => lt_of_le_of_lt (Nat.mod_le _ _) hx) (by omega)
    · refine (tcg_gen_andi_i64_sem T 0xffffffff h1 hra).conseq (fun N _ m => ?_)
      rw [show (0xffffffff : Nat) = 2 ^ 32 - 1 by norm_num, and_two_pow_sub_one]
      exact Agree.refl _ _

theorem rotl64_zero (x : Nat) (hx : x < 2 ^ 64) : rotl 64 x 0 = x := by
  apply Nat.eq_of_testBit_eq; intro i
  rw [testBit_rotl 64 x 0 i (by norm_num)]
  rcases Nat.lt_or_ge i 64 with h | h
  · simp (disch := omega) only [decide_eq_true, decide_eq_false, Bool.and_true,
      Bool.true_and, Bool.false_and, Bool.and_false, Bool.or_false, Bool.false_or,
      Nat.sub_zero]
  · simp (disch := omega) only [decide_eq_true, decide_eq_false, Bool.and_true,
      Bool.true_and, Bool.false_and, Bool.and_false, Bool.or_false, Bool.false_or]
    exact (Nat.testBit_lt_two_pow (lt_of_lt_of_le hx (Nat.pow_le_pow_right (by norm_num) h))).symm

theorem rotl64_eq_shifts (x c : Nat) (hx : x < 2 ^ 64) (h0 : 0 < c) (hc : c < 64) :
    ((x <<< c) % 2 ^ 64) ||| (x >>> (64 - c)) = rotl 64 x c := by
  apply Nat.eq_of_testBit_eq; intro i
  rw [testBit_rotl 64 x c i hc]
  simp only [Nat.testBit_or, Nat.testBit_mod_two_pow, Nat.testBit_shiftLeft,
    Nat.testBit_shiftRight, ge_iff_le]
  rcases Nat.lt_or_ge i 64 with h | h
  · rcases Nat.lt_or_ge i c with h' | h'
    · simp (disch := omega) only [decide_eq_true, decide_eq_false, Bool.and_true,
        Bool.true_and, Bool.false_and, Bool.and_false, Bool.or_false, Bool.false_or]
    · simp (disch := omega) only [decide_eq_true, decide_eq_false, Bool.and_true,
        Bool.true_and, Bool.false_and, Bool.and_false, Bool.or_false, Bool.false_or]
      rw [Nat.testBit_lt_two_pow (lt_of_lt_of_le hx (Nat.pow_le_pow_right (by norm_num)
        (show 64 ≤ 64 - c + i by omega))), Bool.or_false]
  · simp (disch := omega) only [decide_eq_true, decide_eq_false, Bool.and_true,
      Bool.true_and, Bool.false_and, Bool.and_false, Bool.or_false, Bool.false_or]
    rw [Nat.testBit_lt_two_pow (lt_of_lt_of_le hx (Nat.pow_le_pow_right (by norm_num)
      (show 64 ≤ 64 - c + i by omega)))]
theorem Sem.new64_2 (T : TCGTarget) {body : TCGv_i64 → TCGv_i64 → Gen Unit} {n : Nat}
    {F : Nat → Machine → Machine} {F' : Machine → Machine}
    (h : ∀ t, n ≤ t → Sem (body t (t + T.w64)) (t + T.w64 + T.w64) (F t))
    (hF : ∀ t, n ≤ t → ∀ m, Agree t (F t m) (F' m)) (hL : Local n F') :
    Sem (tcg_temp_new_i64 T >>= fun t0 => tcg_temp_new_i64 T >>= fun t1 => body t0 t1) n F' := by
  refine ⟨hL, fun s hs => ?_⟩
  obtain ⟨δ, k, e, r⟩ := (h s.nb_temps hs).2
    { s with nb_temps := s.nb_temps + T.w64 + T.w64 } (le_refl _)
  refine ⟨δ, T.w64 + T.w64 + k, ?_, fun m => ?_⟩
  · rw [Gen.bind_apply]
    simp only [tcg_temp_new_i64, Gen.andThen_some]
    rw [Gen.bind_apply]
    simp only [tcg_temp_new_i64, Gen.andThen_some]
    rw [e]
    simp [TCGContext.extend, Nat.add_assoc]
  · exact ((r m).mono (show s.nb_temps ≤ s.nb_temps + T.w64 + T.w64 by omega)).trans
      (hF _ hs m)

theorem rotl_lt (w x n : Nat) : rotl w x n < 2 ^ w := Nat.mod_lt _ (Nat.two_pow_pos w)

theorem tcg_gen_rotl_i64_sem_native (T : TCGTarget) {r a b n : Nat}
    (h : T.TCG_TARGET_HAS_rot_i64 = true) (ha : a + T.w64 ≤ n) (hb : b + T.w64 ≤ n) :
    Sem (tcg_gen_rotl_i64 T r a b) n
      (fun m => m.set64 T r (rotl 64 (m.get64 T a) (m.get64 T b))) := by
  have hT : T.reg64 = true := by
    simp only [TCGTarget.TCG_TARGET_HAS_rot_i64, Bool.and_eq_true] at h
    exact h.1
  have hw := w64_of_reg64 hT
  unfold tcg_gen_rotl_i64
  simp only [h, if_true]
  exact Sem.op2_64 hT .rotl_i64 (fun x y => rotl 64 x y) (fun _ => rfl)
    (fun x y _ => rotl_lt 64 x y) (by omega) (by omega)

theorem tcg_gen_rotli_i64_sem (T : TCGTarget) {r a n b : Nat} (h2 : b < 64)
    (h1 : a + T.w64 ≤ n) (hr : r + T.w64 ≤ n)
    (hra : r = a ∨ r + T.w64 ≤ a ∨ a + T.w64 ≤ r) :
    Sem (tcg_gen_rotli_i64 T r a b) n
      (fun m => m.set64 T r (rotl 64 (m.get64 T a) b)) := by
  have hw1 := w64_pos T
  unfold tcg_gen_rotli_i64
  refine Sem.assert (by simpa using h2) ?_
  by_cases h0 : b = 0
  · subst h0
    simp only [if_true]
    refine (tcg_gen_mov_i64_sem T h1 hra).conseq (fun N _ m => ?_)
    rw [rotl64_zero _ (Machine.get64_lt T m a)]
    exact Agree.refl _ _
  rw [if_neg h0]
  split
  · rename_i hrot
    exact Sem.imm64 T b (fun x y => rotl 64 x y) (fun x => rotl 64 x b) h1
      (fun t ht => tcg_gen_rotl_i64_sem_native T hrot (by omega) (by omega))
      (fun x => by simp only [mod64_small h2])
  · refine Sem.new64_2 T (fun t ht => Sem.bind
      (tcg_gen_shli_i64_sem T (r := t) (a := a) h2 (by omega) (by omega) (by omega))
      (Sem.bind (tcg_gen_shri_i64_sem T (r := t + T.w64) (a := a) (b := 64 - b)
        (by omega) (by omega) (by omega) (by omega))
      (Sem.bind (tcg_gen_or_i64_sem T (r := r) (a := t) (b := t + T.w64)
        (by omega) (by omega) (by omega) (by omega))
      (Sem.bind (Sem.pure _) (Sem.pure _))))) (fun t ht m => ?_)
      (Local.set64_1 T r (fun x => rotl 64 x b) h1)
    simp only [Function.comp, id]
    simp (disch := omega) only [Machine.get64_set64_self, Machine.get64_set64_ne]
    refine Agree.of_set64 T (by simp) ?_ (fun i hi hne => ?_)
    · congr 1
      rw [Nat.mod_mod, Nat.mod_eq_of_lt (shr_lt_two_pow64 _ _ (Machine.get64_lt T m a))]
      exact rotl64_eq_shifts _ _ (Machine.get64_lt T m a) (Nat.pos_of_ne_zero h0) h2
    · simp (disch := omega) only [Machine.set64_regs_ne]

theorem tcg_gen_rotri_i64_sem (T : TCGTarget) {r a n b : Nat} (h2 : b < 64)
    (h1 : a + T.w64 ≤ n) (hr : r + T.w64 ≤ n)
    (hra : r = a ∨ r + T.w64 ≤ a ∨ a + T.w64 ≤ r) :
    Sem (tcg_gen_rotri_i64 T r a b) n
      (fun m => m.set64 T r (rotr 64 (m.get64 T a) b)) := by
  unfold tcg_gen_rotri_i64
  refine Sem.assert (by simpa using h2) ?_
  by_cases h0 : b = 0
  · subst h0
    simp only [if_true]
    refine (tcg_gen_mov_i64_sem T h1 hra).conseq (fun N _ m => ?_)
    rw [← rotl64_zero _ (Machine.get64_lt T m a)]
    have : rotr 64 (rotl 64 (m.get64 T a) 0) 0 = rotl 64 (m.get64 T a) 0 := by
      rw [rotl64_zero _ (Machine.get64_lt T m a)]
      simp only [rotr, rotl, Nat.zero_mod, Nat.shiftRight_zero, Nat.shiftLeft_zero, Nat.sub_zero]
      rw [Nat.mod_eq_of_lt (Machine.get64_lt T m a)]
      apply Nat.eq_of_testBit_eq; intro i
      simp only [Nat.testBit_or, Nat.testBit_mod_two_pow, Nat.testBit_shiftLeft,
        Nat.testBit_shiftRight, ge_iff_le]
      rcases Nat.lt_or_ge i 64 with h | h
      · simp (disch := omega) only [decide_eq_true, decide_eq_false, Bool.and_true,
          Bool.true_and, Bool.false_and, Bool.and_false, Bool.or_false, Bool.false_or]
      · simp (disch := omega) only [decide_eq_true, decide_eq_false, Bool.and_true,
          Bool.true_and, Bool.false_and, Bool.and_false, Bool.or_false, Bool.false_or]
        exact (Nat.testBit_lt_two_pow (lt_of_lt_of_le (Machine.get64_lt T m a)
          (Nat.pow_le_pow_right (by norm_num) h))).symm
    rw [this]
    exact Agree.refl _ _
  rw [if_neg h0]
  refine (tcg_gen_rotli_i64_sem T (b := 64 - b) (by omega) h1 hr hra).conseq
    (fun N _ m => ?_)
  rw [rotl_sub_eq_rotr 64 _ _ (Nat.pos_of_ne_zero h0) h2]
  exact Agree.refl _ _
theorem testBit_of_lt64 {x i : Nat} (hx : x < 2 ^ 64) (hi : 64 ≤ i) : x.testBit i = false :=
  Nat.testBit_lt_two_pow (lt_of_lt_of_le hx (Nat.pow_le_pow_right (by norm_num) hi))

theorem deposit_lt (w x y o l : Nat) : deposit w x y o l < 2 ^ w := by
  unfold deposit
  exact Nat.or_lt_two_pow (lt_of_le_of_lt Nat.and_le_left (Nat.mod_lt _ (Nat.two_pow_pos w)))
    (Nat.mod_lt _ (Nat.two_pow_pos w))

theorem extract2_lt (w u v o : Nat) : extract2 w u v o < 2 ^ w :=
  Nat.mod_lt _ (Nat.two_pow_pos w)

theorem deposit64_full (x y : Nat) : y % 2 ^ 64 = deposit 64 x y 0 64 := by
  apply Nat.eq_of_testBit_eq; intro i
  simp only [testBit_deposit, Nat.testBit_mod_two_pow]
  rcases Nat.lt_or_ge i 64 with hi | hi
  all_goals simp (disch := omega) only [decide_eq_true, decide_eq_false, Bool.and_true,
    Bool.true_and, Bool.false_and, Bool.and_false, Bool.or_false, Bool.false_or,
    Bool.not_false, Bool.not_true, Nat.sub_zero]

theorem deposit64_mod (x y o l : Nat) :
    deposit 64 (x % 2 ^ 64) (y % 2 ^ 64) o l = deposit 64 x y o l := by
  apply Nat.eq_of_testBit_eq; intro i
  simp only [testBit_deposit, Nat.testBit_mod_two_pow]
  rcases Nat.lt_or_ge i 64 with hi | hi
  · rcases Nat.lt_or_ge i o with hj | hj
    all_goals simp (disch := omega) only [decide_eq_true, decide_eq_false, Bool.and_true,
      Bool.true_and, Bool.false_and, Bool.and_false, Bool.or_false, Bool.false_or,
      Bool.not_false, Bool.not_true]
  · simp (disch := omega) only [decide_eq_true, decide_eq_false, Bool.and_true,
      Bool.true_and, Bool.false_and, Bool.and_false, Bool.or_false, Bool.false_or]

theorem deposit64_extract2_top (x y o l : Nat) (hl : 0 < l) (h : o + l = 64)
    (hlen : l < 64) :
    extract2 64 ((x <<< l) % 2 ^ 64) y l = deposit 64 x y o l := by
  apply Nat.eq_of_testBit_eq; intro i
  simp only [testBit_deposit, testBit_extract2, Nat.testBit_mod_two_pow,
    Nat.testBit_shiftLeft, ge_iff_le]
  rcases Nat.lt_or_ge i 64 with hi | hi
  · rcases Nat.lt_or_ge i o with hj | hj
    · simp (disch := omega) only [decide_eq_true, decide_eq_false, Bool.and_true,
        Bool.true_and, Bool.false_and, Bool.and_false, Bool.or_false, Bool.false_or,
        Bool.not_false, Bool.not_true]
      congr 1; omega
    · simp (disch := omega) only [decide_eq_true, decide_eq_false, Bool.and_true,
        Bool.true_and, Bool.false_and, Bool.and_false, Bool.or_false, Bool.false_or,
        Bool.not_false, Bool.not_true]
      congr 1; omega
  · simp (disch := omega) only [decide_eq_true, decide_eq_false, Bool.and_true,
      Bool.true_and, Bool.false_and, Bool.and_false, Bool.or_false, Bool.false_or]

theorem deposit64_extract2_rot (x y l : Nat) (hl : 0 < l) (hlen : l < 64) :
    rotl 64 (extract2 64 x y l) l = deposit 64 x y 0 l := by
  apply Nat.eq_of_testBit_eq; intro i
  simp only [testBit_deposit, testBit_extract2, testBit_rotl 64 _ l i hlen, Nat.sub_zero,
    Nat.zero_le, decide_True]
  rcases Nat.lt_or_ge i 64 with hi | hi
  · rcases Nat.lt_or_ge i l with hj | hj
    · simp (disch := omega) only [decide_eq_true, decide_eq_false, Bool.and_true,
        Bool.true_and, Bool.false_and, Bool.and_false, Bool.or_false, Bool.false_or,
        Bool.not_false, Bool.not_true]
      congr 1; omega
    · simp (disch := omega) only [decide_eq_true, decide_eq_false, Bool.and_true,
        Bool.true_and, Bool.false_and, Bool.and_false, Bool.or_false, Bool.false_or,
        Bool.not_false, Bool.not_true]
      congr 1; omega
  · simp (disch := omega) only [decide_eq_true, decide_eq_false, Bool.and_true,
      Bool.true_and, Bool.false_and, Bool.and_false, Bool.or_false, Bool.false_or]

theorem deposit64_mask (x y o l : Nat) (hx : x < 2 ^ 64) (ho : o < 64) :
    (x &&& bnot 64 ((2 ^ l - 1) <<< o)) |||
      ((((y &&& (2 ^ l - 1)) % 2 ^ 64) <<< o) % 2 ^ 64) = deposit 64 x y o l := by
  apply Nat.eq_of_testBit_eq; intro i
  simp only [testBit_deposit, testBit_bnot, Nat.testBit_mod_two_pow, Nat.testBit_or,
    Nat.testBit_and, Nat.testBit_two_pow_sub_one, Nat.testBit_shiftLeft, ge_iff_le]
  rcases Nat.lt_or_ge i 64 with hi | hi
  · rcases Nat.lt_or_ge i o with hj | hj
    · simp (disch := omega) only [decide_eq_true, decide_eq_false, Bool.and_true,
        Bool.true_and, Bool.false_and, Bool.and_false, Bool.or_false, Bool.false_or,
        Bool.not_false, Bool.not_true]
    · rcases Nat.lt_or_ge (i - o) l with hk | hk
      all_goals simp (disch := omega) only [decide_eq_true, decide_eq_false,
        Bool.and_true, Bool.true_and, Bool.false_and, Bool.and_false, Bool.or_false,
        Bool.false_or, Bool.not_false, Bool.not_true]
  · simp (disch := omega) only [decide_eq_true, decide_eq_false, Bool.and_true,
      Bool.true_and, Bool.false_and, Bool.and_false, Bool.or_false, Bool.false_or,
      testBit_of_lt64 hx hi]

theorem deposit64_mask_top (x y o l : Nat) (hx : x < 2 ^ 64) (ho : o < 64)
    (h : o + l = 64) :
    (x &&& bnot 64 ((2 ^ l - 1) <<< o)) ||| ((y <<< o) % 2 ^ 64) =
      deposit 64 x y o l := by
  apply Nat.eq_of_testBit_eq; intro i
  simp only [testBit_deposit, testBit_bnot, Nat.testBit_mod_two_pow, Nat.testBit_or,
    Nat.testBit_and, Nat.testBit_two_pow_sub_one, Nat.testBit_shiftLeft, ge_iff_le]
  rcases Nat.lt_or_ge i 64 with hi | hi
  · rcases Nat.lt_or_ge i o with hj | hj
    · simp (disch := omega) only [decide_eq_true, decide_eq_false, Bool.and_true,
        Bool.true_and, Bool.false_and, Bool.and_false, Bool.or_false, Bool.false_or,
        Bool.not_false, Bool.not_true]
    · rcases Nat.lt_or_ge (i - o) l with hk | hk
      all_goals simp (disch := omega) only [decide_eq_true, decide_eq_false,
        Bool.and_true, Bool.true_and, Bool.false_and, Bool.and_false, Bool.or_false,
        Bool.false_or, Bool.not_false, Bool.not_true]
  · simp (disch := omega) only [decide_eq_true, decide_eq_false, Bool.and_true,
      Bool.true_and, Bool.false_and, Bool.and_false, Bool.or_false, Bool.false_or,
      testBit_of_lt64 hx hi]

theorem deposit64_pair_high (lo1 hi1 lo2 hi2 o l : Nat) (h1 : 32 ≤ o)
    (h2 : o + l ≤ 64) :
    deposit 64 (pair64 lo1 hi1) (pair64 lo2 hi2) o l % 2 ^ 32 = lo1 % 2 ^ 32 ∧
    (deposit 64 (pair64 lo1 hi1) (pair64 lo2 hi2) o l >>> 32) % 2 ^ 32 =
      deposit 32 hi1 lo2 (o - 32) l := by
  constructor
  · apply Nat.eq_of_testBit_eq; intro i
    simp only [testBit_deposit, testBit_pair64, Nat.testBit_mod_two_pow]
    rcases Nat.lt_or_ge i 32 with hi | hi
    all_goals simp (disch := omega) only [decide_eq_true, decide_eq_false, Bool.and_true,
      Bool.true_and, Bool.false_and, Bool.and_false, Bool.or_false, Bool.false_or,
      Bool.not_false, Bool.not_true]
  · apply Nat.eq_of_testBit_eq; intro i
    simp only [testBit_deposit, testBit_pair64, Nat.testBit_mod_two_pow, Nat.testBit_shiftRight]
    rcases Nat.lt_or_ge i 32 with hi | hi
    · rcases Nat.lt_or_ge (32 + i) o with hj | hj
      · simp (disch := omega) only [decide_eq_true, decide_eq_false, Bool.and_true,
          Bool.true_and, Bool.false_and, Bool.and_false, Bool.or_false, Bool.false_or,
          Bool.not_false, Bool.not_true]
        congr 1; omega
      · rcases Nat.lt_or_ge (32 + i - o) l with hk | hk
        · simp (disch := omega) only [decide_eq_true, decide_eq_false, Bool.and_true,
            Bool.true_and, Bool.false_and, Bool.and_false, Bool.or_false, Bool.false_or,
            Bool.not_false, Bool.not_true]
          congr 1; omega
        · simp (disch := omega) only [decide_eq_true, decide_eq_false, Bool.and_true,
            Bool.true_and, Bool.false_and, Bool.and_false, Bool.or_false, Bool.false_or,
            Bool.not_false, Bool.not_true]
          congr 1; omega
    · simp (disch := omega) only [decide_eq_true, decide_eq_false, Bool.and_true,
        Bool.true_and, Bool.false_and, Bool.and_false, Bool.or_false, Bool.false_or]

theorem deposit64_pair_low (lo1 hi1 lo2 hi2 o l : Nat) (h2 : o + l ≤ 32) :
    deposit 64 (pair64 lo1 hi1) (pair64 lo2 hi2) o l % 2 ^ 32 =
      deposit 32 lo1 lo2 o l ∧
    (deposit 64 (pair64 lo1 hi1) (pair64 lo2 hi2) o l >>> 32) % 2 ^ 32 = hi1 % 2 ^ 32 := by
  constructor
  · apply Nat.eq_of_testBit_eq; intro i
    simp only [testBit_deposit, testBit_pair64, Nat.testBit_mod_two_pow]
    rcases Nat.lt_or_ge i 32 with hi | hi
    · rcases Nat.lt_or_ge i o with hj | hj
      · simp (disch := omega) only [decide_eq_true, decide_eq_false, Bool.and_true,
          Bool.true_and, Bool.false_and, Bool.and_false, Bool.or_false, Bool.false_or,
          Bool.not_false, Bool.not_true]
      · rcases Nat.lt_or_ge (i - o) l with hk | hk
        all_goals simp (disch := omega) only [decide_eq_true, decide_eq_false, Bool.and_true,
          Bool.true_and, Bool.false_and, Bool.and_false, Bool.or_false, Bool.false_or,
          Bool.not_false, Bool.not_true]
    · simp (disch := omega) only [decide_eq_true, decide_eq_false, Bool.and_true,
        Bool.true_and, Bool.false_and, Bool.and_false, Bool.or_false, Bool.false_or]
  · apply Nat.eq_of_testBit_eq; intro i
    simp only [testBit_deposit, testBit_pair64, Nat.testBit_mod_two_pow, Nat.testBit_shiftRight]
    rcases Nat.lt_or_ge i 32 with hi | hi
    · simp (disch := omega) only [decide_eq_true, decide_eq_false, Bool.and_true,
        Bool.true_and, Bool.false_and, Bool.and_false, Bool.or_false, Bool.false_or,
        Bool.not_false, Bool.not_true]
      congr 1; omega
    · simp (disch := omega) only [decide_eq_true, decide_eq_false, Bool.and_true,
        Bool.true_and, Bool.false_and, Bool.and_false, Bool.or_false, Bool.false_or]
theorem extract2_64_zero (x y : Nat) (hx : x < 2 ^ 64) : x = extract2 64 x y 0 := by
  apply Nat.eq_of_testBit_eq; intro i
  simp only [testBit_extract2, Nat.zero_add]
  rcases Nat.lt_or_ge i 64 with hi | hi
  · simp (disch := omega) only [decide_eq_true, decide_eq_false, Bool.and_true,
      Bool.true_and, Bool.false_and, Bool.and_false, Bool.or_false, Bool.false_or]
  · simp (disch := omega) only [decide_eq_true, decide_eq_false, Bool.and_true,
      Bool.true_and, Bool.false_and, Bool.and_false, Bool.or_false, Bool.false_or,
      testBit_of_lt64 hx hi]

theorem extract2_64_full (x y : Nat) (hy : y < 2 ^ 64) : y = extract2 64 x y 64 := by
  apply Nat.eq_of_testBit_eq; intro i
  simp only [testBit_extract2]
  rcases Nat.lt_or_ge i 64 with hi | hi
  · simp (disch := omega) only [decide_eq_true, decide_eq_false, Bool.and_true,
      Bool.true_and, Bool.false_and, Bool.and_false, Bool.or_false, Bool.false_or]
    congr 1; omega
  · simp (disch := omega) only [decide_eq_true, decide_eq_false, Bool.and_true,
      Bool.true_and, Bool.false_and, Bool.and_false, Bool.or_false, Bool.false_or,
      testBit_of_lt64 hy hi]

theorem extract2_64_same (x o : Nat) (ho : o < 64) :
    rotr 64 x o = extract2 64 x x o := by
  apply Nat.eq_of_testBit_eq; intro i
  simp only [testBit_extract2, testBit_rotr 64 _ o i ho]
  rcases Nat.lt_or_ge i 64 with hi | hi
  · rcases Nat.lt_or_ge (o + i) 64 with hj | hj
    · simp (disch := omega) only [decide_eq_true, decide_eq_false, Bool.and_true,
        Bool.true_and, Bool.false_and, Bool.and_false, Bool.or_false, Bool.false_or]
    · simp (disch := omega) only [decide_eq_true, decide_eq_false, Bool.and_true,
        Bool.true_and, Bool.false_and, Bool.and_false, Bool.or_false, Bool.false_or]
      congr 1; omega
  · simp (disch := omega) only [decide_eq_true, decide_eq_false, Bool.and_true,
      Bool.true_and, Bool.false_and, Bool.and_false, Bool.or_false, Bool.false_or]

theorem tcg_gen_extract2_i64_sem_native (T : TCGTarget) {r u v n o : Nat}
    (hx : T.TCG_TARGET_HAS_extract2_i64 = true)
    (hl : u + T.w64 ≤ n) (hh : v + T.w64 ≤ n) (hr : r + T.w64 ≤ n) (ho : o ≤ 64)
    (hrl : r = u ∨ r + T.w64 ≤ u ∨ u + T.w64 ≤ r)
    (hrh : r = v ∨ r + T.w64 ≤ v ∨ v + T.w64 ≤ r) :
    Sem (tcg_gen_extract2_i64 T r u v o) n
      (fun m => m.set64 T r (extract2 64 (m.get64 T u) (m.get64 T v) o)) := by
  have hT : T.reg64 = true := by
    simp only [TCGTarget.TCG_TARGET_HAS_extract2_i64, Bool.and_eq_true] at hx
    exact hx.1
  have hw := w64_of_reg64 hT
  unfold tcg_gen_extract2_i64
  refine Sem.assert (by simpa using ho) ?_
  beta_reduce
  split_ifs with c0 c1 c2
  · subst c0
    refine (tcg_gen_mov_i64_sem T hl hrl).conseq (fun N _ m => ?_)
    rw [← extract2_64_zero _ _ (Machine.get64_lt T m u)]
    exact Agree.refl _ _
  · subst c1
    refine (tcg_gen_mov_i64_sem T hh hrh).conseq (fun N _ m => ?_)
    rw [← extract2_64_full _ _ (Machine.get64_lt T m v)]
    exact Agree.refl _ _
  · subst c2
    refine (tcg_gen_rotri_i64_sem T (show o < 64 by omega) hl hr hrl).conseq
      (fun N _ m => ?_)
    rw [extract2_64_same _ _ (show o < 64 by omega)]
    exact Agree.refl _ _
  · refine (Sem.emit2 (r := r) (a := u) (b := v) .extract2_i64 [r, u, v, o]
      (fun x y => extract2 64 (x % 2 ^ 64) (y % 2 ^ 64) o) (fun _ => rfl)
      (show u < n by omega) (show v < n by omega)).conseq (fun N _ m => ?_)
    refine Agree.of_reg64 hT rfl ?_ (fun i hi h1 => ?_)
    · simp only [Machine.set_regs_self, Machine.get64_of_reg64 hT]
      exact (Nat.mod_eq_of_lt (extract2_lt _ _ _ _)).symm
    · simp (disch := omega) only [Machine.set_regs_ne]
theorem tcg_gen_deposit_i64_sem (T : TCGTarget) {r a b n o l : Nat}
    (h1 : a + T.w64 ≤ n) (h2 : b + T.w64 ≤ n) (hr : r + T.w64 ≤ n)
    (hr1 : r = a ∨ r + T.w64 ≤ a ∨ a + T.w64 ≤ r)
    (hr2 : r = b ∨ r + T.w64 ≤ b ∨ b + T.w64 ≤ r)
    (ho : o < 64) (hl : 0 < l) (hol : o + l ≤ 64) :
    Sem (tcg_gen_deposit_i64 T r a b o l) n
      (fun m => m.set64 T r (deposit 64 (m.get64 T a) (m.get64 T b) o l)) := by
  have hw1 := w64_pos T
  have hL : Local n (fun m => m.set64 T r
      (deposit 64 (m.get64 T a) (m.get64 T b) o l)) :=
    Local.set64_2 T r (fun x y => deposit 64 x y o l) h1 h2
  unfold tcg_gen_deposit_i64
  refine Sem.assert (by simpa using ho) (Sem.assert (by simpa using hl)
    (Sem.assert (by simp; omega) (Sem.assert (by simpa using hol) ?_)))
  beta_reduce
  split_ifs with c1 c2 c3 c4 c5 c6 c7
  · subst c1
    have : o = 0 := by omega
    subst this
    refine (tcg_gen_mov_i64_sem T h2 hr2).conseq (fun N _ m => ?_)
    refine Agree.set64 T (Agree.refl _ _) _ ?_
    rw [← deposit64_full]
    exact (Nat.mod_mod _ _).symm
  · have hT : T.reg64 = true := by
      have := c2.1
      simp only [TCGTarget.TCG_TARGET_HAS_deposit_i64, Bool.and_eq_true] at this
      exact this.1
    have hw := w64_of_reg64 hT
    refine (Sem.emit2 (r := r) (a := a) (b := b) .deposit_i64
      [r, a, b, o, l]
      (fun x y => deposit 64 (x % 2 ^ 64) (y % 2 ^ 64) o l) (fun _ => rfl)
      (by omega) (by omega)).conseq (fun N _ m => ?_)
    refine Agree.of_reg64 hT rfl ?_ (fun i hi h1 => ?_)
    · simp only [Machine.set_regs_self, Machine.get64_of_reg64 hT]
      exact (Nat.mod_eq_of_lt (deposit_lt _ _ _ _ _)).symm
    · simp (disch := omega) only [Machine.set_regs_ne]
  · have hT : T.reg64 = false := by simpa using c3.1
    have hw := w64_of_reg32 hT
    have hv := deposit64_pair_high
    simp only [TCGV_LOW, TCGV_HIGH]
    refine (Sem.bind (tcg_gen_deposit_i32_sem T (r := r + 1) (a := a + 1)
      (b := b) (o := o - 32) (l := l) (by omega) (by omega) (by omega)
      (by omega) hl (by omega)) (tcg_gen_mov_i32_sem (r := r) (a := a)
      (by omega))).conseq (fun N _ m => ?_)
    refine Agree.of_pair hT rfl ?_ ?_ (fun i hi h1 h2 => ?_)
    · simp (disch := omega) only [Function.comp, Machine.set_regs_self, Machine.set_regs_ne,
        Machine.get64_of_reg32 hT]
      exact (hv _ _ _ _ _ _ c3.2 hol).1.symm
    · simp (disch := omega) only [Function.comp, Machine.set_regs_self, Machine.set_regs_ne,
        Machine.get64_of_reg32 hT]
      exact (hv _ _ _ _ _ _ c3.2 hol).2.symm
    · simp (disch := omega) only [Function.comp, Machine.set_regs_ne]
  · have hT : T.reg64 = false := by simpa using c4.1
    have hw := w64_of_reg32 hT
    have hv := deposit64_pair_low
    simp only [TCGV_LOW, TCGV_HIGH]
    refine (Sem.bind (tcg_gen_deposit_i32_sem T (r := r) (a := a)
      (b := b) (o := o) (l := l) (by omega) (by omega) (by omega)
      (by omega) hl c4.2) (tcg_gen_mov_i32_sem (r := r + 1) (a := a + 1)
      (by omega))).conseq (fun N _ m => ?_)
    refine Agree.of_pair hT rfl ?_ ?_ (fun i hi h1 h2 => ?_)
    · simp (disch := omega) only [Function.comp, Machine.set_regs_self, Machine.set_regs_ne,
        Machine.get64_of_reg32 hT]
      exact (hv _ _ _ _ _ _ c4.2).1.symm
    · simp (disch := omega) only [Function.comp, Machine.set_regs_self, Machine.set_regs_ne,
        Machine.get64_of_reg32 hT]
      exact (hv _ _ _ _ _ _ c4.2).2.symm
    · simp (disch := omega) only [Function.comp, Machine.set_regs_ne]
  · have hlen : l < 64 := by omega
    refine Sem.new64 T (fun t ht => Sem.bind
      (tcg_gen_shli_i64_sem T (r := t) (a := a) hlen (by omega) (by omega) (by omega))
      (Sem.bind (tcg_gen_extract2_i64_sem_native T (r := r) (u := t) (v := b)
        (o := l) c5.1 (by omega) (by omega) (by omega) (by omega) (by omega) hr2)
      (Sem.pure _))) (fun t ht m => ?_) hL
    simp only [Function.comp, id]
    simp (disch := omega) only [Machine.get64_set64_self, Machine.get64_set64_ne]
    refine Agree.of_set64 T (by simp) ?_ (fun i hi hne => ?_)
    · rw [Nat.mod_mod, deposit64_extract2_top _ _ o l hl c5.2 hlen]
    · simp (disch := omega) only [Machine.set64_regs_ne]
  · obtain ⟨c6a, rfl⟩ := c6
    have hlen : l < 64 := by omega
    refine Sem.new64 T (fun t ht => Sem.bind
      (tcg_gen_extract2_i64_sem_native T (r := r) (u := a) (v := b)
        (o := l) c6a (by omega) (by omega) (by omega) (by omega) hr1 hr2)
      (Sem.bind (tcg_gen_rotli_i64_sem T (r := r) (a := r) hlen (by omega) (by omega)
        (Or.inl rfl))
      (Sem.pure _))) (fun t ht m => ?_) hL
    simp only [Function.comp, id]
    simp (disch := omega) only [Machine.get64_set64_self, Machine.get64_set64_ne]
    refine Agree.of_set64 T (by simp) ?_ (fun i hi hne => ?_)
    · rw [Nat.mod_eq_of_lt (extract2_lt _ _ _ _), deposit64_extract2_rot _ _ l hl hlen]
    · simp (disch := omega) only [Machine.set64_regs_ne]
  · refine Sem.new64 T (fun t ht => Sem.bind (Sem.bind
        (tcg_gen_andi_i64_sem T (r := t) (a := b) (2 ^ l - 1) (by omega) (by omega))
        (tcg_gen_shli_i64_sem T (r := t) (a := t) ho (by omega) (by omega) (Or.inl rfl)))
      (Sem.bind (tcg_gen_andi_i64_sem T (r := r) (a := a)
        (bnot 64 ((2 ^ l - 1) <<< o)) (by omega) hr1)
      (Sem.bind (tcg_gen_or_i64_sem T (r := r) (a := r) (b := t)
        (by omega) (by omega) (Or.inl rfl) (by omega))
      (Sem.pure _)))) (fun t ht m => ?_) hL
    simp only [Function.comp, id]
    simp (disch := omega) only [Machine.get64_set64_self, Machine.get64_set64_ne]
    refine Agree.of_set64 T (by simp) ?_ (fun i hi hne => ?_)
    · congr 1
      rw [Nat.mod_mod, Nat.mod_eq_of_lt (and_lt_two_pow64 _ _ (Machine.get64_lt T m a))]
      exact deposit64_mask _ _ _ _ (Machine.get64_lt T m a) ho
    · simp (disch := omega) only [Machine.set64_regs_ne]
  · refine Sem.new64 T (fun t ht => Sem.bind
        (tcg_gen_shli_i64_sem T (r := t) (a := b) ho (by omega) (by omega) (by omega))
      (Sem.bind (tcg_gen_andi_i64_sem T (r := r) (a := a)
        (bnot 64 ((2 ^ l - 1) <<< o)) (by omega) hr1)
      (Sem.bind (tcg_gen_or_i64_sem T (r := r) (a := r) (b := t)
        (by omega) (by omega) (Or.inl rfl) (by omega))
      (Sem.pure _)))) (fun t ht m => ?_) hL
    simp only [Function.comp, id]
    simp (disch := omega) only [Machine.get64_set64_self, Machine.get64_set64_ne]
    refine Agree.of_set64 T (by simp) ?_ (fun i hi hne => ?_)
    · congr 1
      rw [Nat.mod_mod, Nat.mod_eq_of_lt (and_lt_two_pow64 _ _ (Machine.get64_lt T m a))]
      exact deposit64_mask_top _ _ _ _ (Machine.get64_lt T m a) ho (by omega)
    · simp (disch := omega) only [Machine.set64_regs_ne]
theorem extract64_top (x o l : Nat) (hx : x < 2 ^ 64) (h : o + l = 64) :
    (x >>> (64 - l)) % 2 ^ 64 = ((x >>> o) % 2 ^ l) % 2 ^ 64 := by
  apply Nat.eq_of_testBit_eq; intro i
  simp only [Nat.testBit_mod_two_pow, Nat.testBit_shiftRight]
  rcases Nat.lt_or_ge i l with hi | hi
  · simp (disch := omega) only [decide_eq_true, decide_eq_false, Bool.and_true,
      Bool.true_and, Bool.false_and, Bool.and_false, Bool.or_false, Bool.false_or]
    congr 1; omega
  · simp (disch := omega) only [decide_eq_true, decide_eq_false, Bool.and_true,
      Bool.true_and, Bool.false_and, Bool.and_false, Bool.or_false, Bool.false_or,
      testBit_of_lt64 hx (show 64 ≤ 64 - l + i by omega)]

theorem extract64_extu (x o l k : Nat) (h : o + l = k) :
    (x % 2 ^ k) >>> o = (x >>> o) % 2 ^ l := by
  apply Nat.eq_of_testBit_eq; intro i
  simp only [Nat.testBit_mod_two_pow, Nat.testBit_shiftRight]
  rcases Nat.lt_or_ge i l with hi | hi
  all_goals simp (disch := omega) only [decide_eq_true, decide_eq_false, Bool.and_true,
      Bool.true_and, Bool.false_and, Bool.and_false, Bool.or_false, Bool.false_or]

theorem extract64_shifts (x o l : Nat) (hl : 0 < l) (h : o + l ≤ 64) :
    ((x <<< (64 - l - o)) % 2 ^ 64) >>> (64 - l) = (x >>> o) % 2 ^ l := by
  apply Nat.eq_of_testBit_eq; intro i
  simp only [Nat.testBit_mod_two_pow, Nat.testBit_shiftRight, Nat.testBit_shiftLeft, ge_iff_le]
  rcases Nat.lt_or_ge i l with hi | hi
  · simp (disch := omega) only [decide_eq_true, decide_eq_false, Bool.and_true,
      Bool.true_and, Bool.false_and, Bool.and_false, Bool.or_false, Bool.false_or]
    congr 1; omega
  · simp (disch := omega) only [decide_eq_true, decide_eq_false, Bool.and_true,
      Bool.true_and, Bool.false_and, Bool.and_false, Bool.or_false, Bool.false_or]

theorem extract64_pair_high (lo hi o l : Nat) (h1 : 32 ≤ o) (h2 : o + l ≤ 64) :
    ((hi % 2 ^ 32) >>> (o - 32)) % 2 ^ l = ((pair64 lo hi >>> o) % 2 ^ l) % 2 ^ 32 ∧
    0 % 2 ^ 32 = (((pair64 lo hi >>> o) % 2 ^ l) >>> 32) % 2 ^ 32 := by
  constructor
  · apply Nat.eq_of_testBit_eq; intro i
    simp only [Nat.testBit_mod_two_pow, Nat.testBit_shiftRight, testBit_pair64]
    rcases Nat.lt_or_ge i l with hi | hi
    · simp (disch := omega) only [decide_eq_true, decide_eq_false, Bool.and_true,
        Bool.true_and, Bool.false_and, Bool.and_false, Bool.or_false, Bool.false_or]
      congr 1; omega
    · simp (disch := omega) only [decide_eq_true, decide_eq_false, Bool.and_true,
        Bool.true_and, Bool.false_and, Bool.and_false, Bool.or_false, Bool.false_or]
  · apply Nat.eq_of_testBit_eq; intro i
    simp only [Nat.testBit_mod_two_pow, Nat.testBit_shiftRight, testBit_pair64,
      Nat.zero_testBit]
    simp (disch := omega) only [decide_eq_true, decide_eq_false, Bool.and_true,
      Bool.true_and, Bool.false_and, Bool.and_false, Bool.or_false, Bool.false_or]

theorem extract64_pair_low (lo hi o l : Nat) (h2 : o + l ≤ 32) :
    ((lo % 2 ^ 32) >>> o) % 2 ^ l = ((pair64 lo hi >>> o) % 2 ^ l) % 2 ^ 32 ∧
    0 % 2 ^ 32 = (((pair64 lo hi >>> o) % 2 ^ l) >>> 32) % 2 ^ 32 := by
  constructor
  · apply Nat.eq_of_testBit_eq; intro i
    simp only [Nat.testBit_mod_two_pow, Nat.testBit_shiftRight, testBit_pair64]
    rcases Nat.lt_or_ge i l with hi | hi
    · simp (disch := omega) only [decide_eq_true, decide_eq_false, Bool.and_true,
        Bool.true_and, Bool.false_and, Bool.and_false, Bool.or_false, Bool.false_or]
    · simp (disch := omega) only [decide_eq_true, decide_eq_false, Bool.and_true,
        Bool.true_and, Bool.false_and, Bool.and_false, Bool.or_false, Bool.false_or]
  · apply Nat.eq_of_testBit_eq; intro i
    simp only [Nat.testBit_mod_two_pow, Nat.testBit_shiftRight, testBit_pair64,
      Nat.zero_testBit]
    simp (disch := omega) only [decide_eq_true, decide_eq_false, Bool.and_true,
      Bool.true_and, Bool.false_and, Bool.and_false, Bool.or_false, Bool.false_or]

/-- Two successive 64-bit writes to `ret`, the second reading the first. -/
theorem Sem.seq2_64 (T : TCGTarget) {g1 : Gen Unit} {k : Unit → Gen Unit} {n r a : Nat}
    {p q f : Nat → Nat}
    (h1 : Sem g1 n (fun m => m.set64 T r (p (m.get64 T a))))
    (h2 : Sem (k ()) n (fun m => m.set64 T r (q (m.get64 T r))))
    (hv : ∀ x, x < 2 ^ 64 → q (p x % 2 ^ 64) % 2 ^ 64 = f x % 2 ^ 64) :
    Sem (g1 >>= k) n (fun m => m.set64 T r (f (m.get64 T a))) := by
  have hw1 := w64_pos T
  refine (Sem.bind h1 h2).conseq (fun N _ m => ?_)
  simp only [Function.comp]
  rw [Machine.get64_set64_self]
  refine Agree.of_set64 T (by simp) (hv _ (Machine.get64_lt T m a)) (fun i hi hne => ?_)
  simp (disch := omega) only [Machine.set64_regs_ne]
theorem tcg_gen_extract_i64_sem (T : TCGTarget) {r a n o l : Nat}
    (h1 : a + T.w64 ≤ n) (hr : r + T.w64 ≤ n)
    (hra : r = a ∨ r + T.w64 ≤ a ∨ a + T.w64 ≤ r)
    (ho : o < 64) (hl : 0 < l) (hol : o + l ≤ 64) :
    Sem (tcg_gen_extract_i64 T r a o l) n
      (fun m => m.set64 T r ((m.get64 T a >>> o) % 2 ^ l)) := by
  have hw1 := w64_pos T
  have hshr_and : Sem (do
        tcg_gen_shri_i64 T r a o
        tcg_gen_andi_i64 T r r (2 ^ l - 1)) n
      (fun m => m.set64 T r ((m.get64 T a >>> o) % 2 ^ l)) := by
    refine Sem.seq2_64 T (p := fun x => x >>> o) (q := fun x => x &&& (2 ^ l - 1))
      (f := fun x => (x >>> o) % 2 ^ l)
      (tcg_gen_shri_i64_sem T ho h1 hr hra)
      (tcg_gen_andi_i64_sem T (2 ^ l - 1) hr (Or.inl rfl)) (fun x hx => ?_)
    simp only []
    rw [Nat.mod_eq_of_lt (shr_lt_two_pow64 _ _ hx), and_two_pow_sub_one]
  have hextu : ∀ (k : Nat) (g : Gen Unit), o + l = k →
      Sem g n (fun m => m.set64 T r (m.get64 T a % 2 ^ k)) →
      Sem (do g; tcg_gen_shri_i64 T r r o) n
        (fun m => m.set64 T r ((m.get64 T a >>> o) % 2 ^ l)) := by
    intro k g hk hg
    refine Sem.seq2_64 T (p := fun x => x % 2 ^ k) (q := fun x => x >>> o)
      (f := fun x => (x >>> o) % 2 ^ l)
      hg (tcg_gen_shri_i64_sem T ho hr hr (Or.inl rfl)) (fun x hx => ?_)
    simp only []
    rw [Nat.mod_eq_of_lt (lt_of_le_of_lt (Nat.mod_le _ _) hx), extract64_extu _ _ _ _ hk]
  unfold tcg_gen_extract_i64
  refine Sem.assert (by simpa using ho) (Sem.assert (by simpa using hl)
    (Sem.assert (by simp; omega) (Sem.assert (by simpa using hol) ?_)))
  beta_reduce
  split_ifs with c1 c2 c3 c4 c5 c6 c7 c8 c9 c10
  · refine (tcg_gen_shri_i64_sem T (b := 64 - l) (by omega) h1 hr hra).conseq
      (fun N _ m => ?_)
    exact Agree.set64 T (Agree.refl _ _) _ (extract64_top _ _ _ (Machine.get64_lt T m a) c1)
  · subst c2
    refine (tcg_gen_andi_i64_sem T (2 ^ l - 1) h1 hra).conseq (fun N _ m => ?_)
    rw [and_two_pow_sub_one, Nat.shiftRight_zero]
    exact Agree.refl _ _
  · have hT : T.reg64 = true := c3
    have hw := w64_of_reg64 hT
    refine (Sem.emit1 (r := r) (a := a) .extract_i64 [r, a, o, l]
      (fun x => ((x % 2 ^ 64) >>> o) % 2 ^ l) (fun _ => rfl) (by omega)).conseq
      (fun N _ m => ?_)
    refine Agree.of_reg64 hT rfl ?_ (fun i hi h1 => ?_)
    · simp only [Machine.set_regs_self, Machine.get64_of_reg64 hT]
      exact (Nat.mod_eq_of_lt (lt_of_le_of_lt (Nat.mod_le _ _)
        (shr_lt_two_pow64 _ _ (Nat.mod_lt _ (by norm_num))))).symm
    · simp (disch := omega) only [Machine.set_regs_ne]
  · exact hextu 32 _ c5.1 (tcg_gen_ext32u_i64_sem T h1 hra)
  · exact hextu 16 _ c6.1 (tcg_gen_ext16u_i64_sem T h1 hra)
  · exact hextu 8 _ c7.1 (tcg_gen_ext8u_i64_sem T h1 hra)
  · exact hshr_and
  · refine Sem.seq2_64 T (p := fun x => (x <<< (64 - l - o)) % 2 ^ 64)
      (q := fun x => x >>> (64 - l)) (f := fun x => (x >>> o) % 2 ^ l)
      (tcg_gen_shli_i64_sem T (by omega) h1 hr hra)
      (tcg_gen_shri_i64_sem T (by omega) hr hr (Or.inl rfl)) (fun x hx => ?_)
    simp only []
    rw [Nat.mod_mod, extract64_shifts _ _ _ hl hol]
  · have hT : T.reg64 = false := by simpa using c3
    have hw := w64_of_reg32 hT
    have hv := extract64_pair_high
    simp only [TCGV_LOW, TCGV_HIGH]
    refine (Sem.bind (tcg_gen_extract_i32_sem T (r := r) (a := a + 1)
      (o := o - 32) (l := l) (by omega) (by omega) (by omega) hl (by omega))
      (tcg_gen_movi_i32_sem (r + 1) 0 n)).conseq (fun N _ m => ?_)
    refine Agree.of_pair hT rfl ?_ ?_ (fun i hi h1 h2 => ?_)
    · simp (disch := omega) only [Function.comp, Machine.set_regs_self, Machine.set_regs_ne,
        Machine.get64_of_reg32 hT]
      exact (hv _ _ _ _ c9 hol).1
    · simp (disch := omega) only [Function.comp, Machine.set_regs_self, Machine.set_regs_ne,
        Machine.get64_of_reg32 hT]
      exact (hv _ _ _ _ c9 hol).2
    · simp (disch := omega) only [Function.comp, Machine.set_regs_ne]
  · have hT : T.reg64 = false := by simpa using c3
    have hw := w64_of_reg32 hT
    have hv := extract64_pair_low
    simp only [TCGV_LOW, TCGV_HIGH]
    refine (Sem.bind (tcg_gen_extract_i32_sem T (r := r) (a := a)
      (o := o) (l := l) (by omega) (by omega) (by omega) hl (by omega))
      (tcg_gen_movi_i32_sem (r + 1) 0 n)).conseq (fun N _ m => ?_)
    refine Agree.of_pair hT rfl ?_ ?_ (fun i hi h1 h2 => ?_)
    · simp (disch := omega) only [Function.comp, Machine.set_regs_self, Machine.set_regs_ne,
        Machine.get64_of_reg32 hT]
      exact (hv _ _ _ _ c10).1
    · simp (disch := omega) only [Function.comp, Machine.set_regs_self, Machine.set_regs_ne,
        Machine.get64_of_reg32 hT]
      exact (hv _ _ _ _ c10).2
    · simp (disch := omega) only [Function.comp, Machine.set_regs_ne]
  · exact hshr_and
theorem testBit_bswap16 (x i : Nat) :
    (bswap16 x).testBit i =
      ((decide (8 ≤ i) && (decide (i < 16) && x.testBit (i - 8))) ||
       (decide (i < 8) && x.testBit (i + 8))) := by
  unfold bswap16
  simp only [Nat.testBit_or, Nat.testBit_shiftLeft, testBit_byte, ge_iff_le]
  rcases Nat.lt_or_ge i 8 with h1 | h1
  · simp (disch := omega) only [decide_eq_true, decide_eq_false, Bool.and_true,
      Bool.true_and, Bool.false_and, Bool.and_false, Bool.or_false, Bool.false_or]
    congr 1; omega
  · rcases Nat.lt_or_ge i 16 with h2 | h2
    · simp (disch := omega) only [decide_eq_true, decide_eq_false, Bool.and_true,
        Bool.true_and, Bool.false_and, Bool.and_false, Bool.or_false, Bool.false_or]
      congr 1; omega
    · simp (disch := omega) only [decide_eq_true, decide_eq_false, Bool.and_true,
        Bool.true_and, Bool.false_and, Bool.and_false, Bool.or_false, Bool.false_or]

theorem bswap16_lt (x : Nat) : bswap16 x < 2 ^ 16 := by
  apply Nat.lt_pow_two_of_testBit
  intro i hi
  rw [testBit_bswap16]
  simp (disch := omega) only [decide_eq_true, decide_eq_false, Bool.and_true,
    Bool.true_and, Bool.false_and, Bool.and_false, Bool.or_false, Bool.false_or]

theorem bswap32_lt (x : Nat) : bswap32 x < 2 ^ 32 := by
  apply Nat.lt_pow_two_of_testBit
  intro i hi
  rw [testBit_bswap32]
  simp (disch := omega) only [decide_eq_true, decide_eq_false, Bool.and_true,
    Bool.true_and, Bool.false_and, Bool.and_false, Bool.or_false, Bool.false_or]

/-- The value of the synthesized 16-bit byte swap: correct only when the bytes
above the low two are zero. -/
theorem bswap16_synth_eq (x : Nat) (hx : x < 2 ^ 16) :
    (x >>> 8) ||| ((x % 2 ^ 8) <<< 8) = bswap16 x := by
  apply Nat.eq_of_testBit_eq; intro i
  simp only [testBit_bswap16, Nat.testBit_mod_two_pow, Nat.testBit_or, Nat.testBit_shiftRight,
    Nat.testBit_shiftLeft, ge_iff_le]
  rcases Nat.lt_or_ge i 8 with h1 | h1
  · simp (disch := omega) only [decide_eq_true, decide_eq_false, Bool.and_true,
      Bool.true_and, Bool.false_and, Bool.and_false, Bool.or_false, Bool.false_or]
    congr 1; omega
  · rcases Nat.lt_or_ge i 16 with h2 | h2
    · simp (disch := omega) only [decide_eq_true, decide_eq_false, Bool.and_true,
        Bool.true_and, Bool.false_and, Bool.and_false, Bool.or_false, Bool.false_or]
      rw [Nat.testBit_lt_two_pow (lt_of_lt_of_le hx (Nat.pow_le_pow_right (by norm_num)
        (show 16 ≤ 8 + i by omega))), Bool.false_or]
    · simp (disch := omega) only [decide_eq_true, decide_eq_false, Bool.and_true,
        Bool.true_and, Bool.false_and, Bool.and_false, Bool.or_false, Bool.false_or]
      rw [Nat.testBit_lt_two_pow (lt_of_lt_of_le hx (Nat.pow_le_pow_right (by norm_num)
        (show 16 ≤ 8 + i by omega)))]

theorem tcg_gen_bswap16_i64_sem (T : TCGTarget) {r a n : Nat} (h1 : a + T.w64 ≤ n)
    (hr : r + T.w64 ≤ n)
    (hra : r = a ∨ r + T.w64 ≤ a ∨ a + T.w64 ≤ r) :
    Sem (tcg_gen_bswap16_i64 T r a) n
      (fun m => m.set64 T r
        (if T.reg64 then
          (if T.TCG_TARGET_HAS_bswap16_i64 then bswap16 (m.get64 T a)
           else (m.get64 T a >>> 8) ||| ((m.get64 T a % 2 ^ 8) <<< 8))
         else
          (if T.TCG_TARGET_HAS_bswap16_i32 then bswap16 (m.get64 T a % 2 ^ 32)
           else ((m.get64 T a % 2 ^ 32) >>> 8) ||| ((m.get64 T a % 2 ^ 8) <<< 8)))) := by
  have hw1 := w64_pos T
  unfold tcg_gen_bswap16_i64
  cases hT : T.reg64
  · have hw := w64_of_reg32 hT
    simp only [Bool.false_eq_true, not_false_eq_true, if_true, if_false, TCGV_LOW, TCGV_HIGH]
    refine (Sem.bind (tcg_gen_bswap16_i32_sem T (r := r) (a := a) (by omega) (by omega))
      (tcg_gen_movi_i32_sem (r + 1) 0 n)).conseq (fun N _ m => ?_)
    refine Agree.of_pair hT rfl ?_ ?_ (fun i hi h1 h2 => ?_)
    · simp (disch := omega) only [Function.comp, Machine.set_regs_self, Machine.set_regs_ne,
        Machine.get64_of_reg32 hT, pair64_low, pair64_mod_low _ _ 8 (by norm_num)]
      split
      · exact (Nat.mod_eq_of_lt (lt_trans (bswap16_lt _) (by norm_num))).symm
      · apply Nat.eq_of_testBit_eq; intro i
        simp only [Nat.testBit_mod_two_pow, Nat.testBit_or, Nat.testBit_shiftRight,
          Nat.testBit_shiftLeft, testBit_pair64, ge_iff_le]
        rcases Nat.lt_or_ge i 8 with h1 | h1
        · simp (disch := omega) only [decide_eq_true, decide_eq_false, Bool.and_true,
            Bool.true_and, Bool.false_and, Bool.and_false, Bool.or_false, Bool.false_or]
        · rcases Nat.lt_or_ge i 16 with h2 | h2
          · simp (disch := omega) only [decide_eq_true, decide_eq_false, Bool.and_true,
              Bool.true_and, Bool.false_and, Bool.and_false, Bool.or_false, Bool.false_or]
          · rcases Nat.lt_or_ge i 24 with h3 | h3
            · simp (disch := omega) only [decide_eq_true, decide_eq_false, Bool.and_true,
                Bool.true_and, Bool.false_and, Bool.and_false, Bool.or_false, Bool.false_or]
            · rcases Nat.lt_or_ge i 32 with h4 | h4
              all_goals simp (disch := omega) only [decide_eq_true, decide_eq_false,
                Bool.and_true, Bool.true_and, Bool.false_and, Bool.and_false, Bool.or_false,
                Bool.false_or]
    · simp (disch := omega) only [Function.comp, Machine.set_regs_self, Machine.set_regs_ne,
        Machine.get64_of_reg32 hT, pair64_low]
      apply Nat.eq_of_testBit_eq; intro i
      split
      · simp only [Nat.testBit_mod_two_pow, Nat.testBit_shiftRight, testBit_bswap16,
          Nat.zero_testBit]
        simp (disch := omega) only [decide_eq_true, decide_eq_false, Bool.and_true,
          Bool.true_and, Bool.false_and, Bool.and_false, Bool.or_false, Bool.false_or]
      · simp only [Nat.testBit_mod_two_pow, Nat.testBit_or, Nat.testBit_shiftRight,
          Nat.testBit_shiftLeft, testBit_pair64, ge_iff_le, Nat.zero_testBit]
        simp (disch := omega) only [decide_eq_true, decide_eq_false, Bool.and_true,
          Bool.true_and, Bool.false_and, Bool.and_false, Bool.or_false, Bool.false_or]
    · simp (disch := omega) only [Function.comp, Machine.set_regs_ne]
  · have hw := w64_of_reg64 hT
    simp only [not_true_eq_false, if_false, if_true]
    split
    · exact Sem.op1_64 hT .bswap16_i64 (fun x => bswap16 x) (fun _ => rfl)
        (fun x _ => lt_trans (bswap16_lt x) (by norm_num)) (by omega)
    · refine Sem.new64 T (fun t ht => Sem.bind
        (tcg_gen_ext8u_i64_sem T (r := t) (a := a) (by omega) (by omega))
        (Sem.bind (tcg_gen_shli_i64_sem T (r := t) (a := t) (b := 8) (by norm_num)
          (by omega) (by omega) (Or.inl rfl))
        (Sem.bind (tcg_gen_shri_i64_sem T (r := r) (a := a) (b := 8) (by norm_num)
          (by omega) (by omega) hra)
        (Sem.bind (tcg_gen_or_i64_sem T (r := r) (a := r) (b := t) (by omega) (by omega)
          (Or.inl rfl) (by omega))
        (Sem.pure _))))) (fun t ht m => ?_)
        (Local.set64_1 T r (fun x => (x >>> 8) ||| ((x % 2 ^ 8) <<< 8)) h1)
      simp only [Function.comp, id]
      simp (disch := omega) only [Machine.get64_set64_self, Machine.get64_set64_ne]
      refine Agree.of_set64 T (by simp) ?_ (fun i hi hne => ?_)
      · congr 1
        have hx := Machine.get64_lt T m a
        apply Nat.eq_of_testBit_eq; intro i
        simp only [Nat.testBit_mod_two_pow, Nat.testBit_or, Nat.testBit_shiftRight,
          Nat.testBit_shiftLeft, ge_iff_le]
        rcases Nat.lt_or_ge i 8 with h1 | h1
        · simp (disch := omega) only [decide_eq_true, decide_eq_false, Bool.and_true,
            Bool.true_and, Bool.false_and, Bool.and_false, Bool.or_false, Bool.false_or]
        · rcases Nat.lt_or_ge i 16 with h2 | h2
          · simp (disch := omega) only [decide_eq_true, decide_eq_false, Bool.and_true,
              Bool.true_and, Bool.false_and, Bool.and_false, Bool.or_false, Bool.false_or]
          · rcases Nat.lt_or_ge i 64 with h4 | h4
            · simp (disch := omega) only [decide_eq_true, decide_eq_false,
                Bool.and_true, Bool.true_and, Bool.false_and, Bool.and_false, Bool.or_false,
                Bool.false_or]
            · simp (disch := omega) only [decide_eq_true, decide_eq_false,
                Bool.and_true, Bool.true_and, Bool.false_and, Bool.and_false, Bool.or_false,
                Bool.false_or, testBit_of_lt64 hx (show 64 ≤ 8 + i by omega)]
      · simp (disch := omega) only [Machine.set64_regs_ne]
theorem testBit_bswap64 (x i : Nat) :
    (bswap64 x).testBit i =
      ((decide (56 ≤ i) && (decide (i < 64) && x.testBit (i - 56))) ||
       (decide (48 ≤ i) && (decide (i < 56) && x.testBit (i - 40))) ||
       (decide (40 ≤ i) && (decide (i < 48) && x.testBit (i - 24))) ||
       (decide (32 ≤ i) && (decide (i < 40) && x.testBit (i - 8))) ||
       (decide (24 ≤ i) && (decide (i < 32) && x.testBit (i + 8))) ||
       (decide (16 ≤ i) && (decide (i < 24) && x.testBit (i + 24))) ||
       (decide (8 ≤ i) && (decide (i < 16) && x.testBit (i + 40))) ||
       (decide (i < 8) && x.testBit (i + 56))) := by
  unfold bswap64
  simp only [Nat.testBit_or, Nat.testBit_shiftLeft, testBit_byte, ge_iff_le]
  have key : i < 8 ∨ (8 ≤ i ∧ i < 16) ∨ (16 ≤ i ∧ i < 24) ∨ (24 ≤ i ∧ i < 32) ∨
      (32 ≤ i ∧ i < 40) ∨ (40 ≤ i ∧ i < 48) ∨ (48 ≤ i ∧ i < 56) ∨ (56 ≤ i ∧ i < 64) ∨
      64 ≤ i := by omega
  rcases key with h | h | h | h | h | h | h | h | h
  all_goals simp (disch := omega) only [decide_eq_true, decide_eq_false, Bool.and_true,
      Bool.true_and, Bool.false_and, Bool.and_false, Bool.or_false, Bool.false_or]
  all_goals congr 1; omega

theorem bswap64_lt (x : Nat) : bswap64 x < 2 ^ 64 := by
  apply Nat.lt_pow_two_of_testBit
  intro i hi
  rw [testBit_bswap64]
  simp (disch := omega) only [decide_eq_true, decide_eq_false, Bool.and_true,
    Bool.true_and, Bool.false_and, Bool.and_false, Bool.or_false, Bool.false_or]

theorem bswap32_pair (lo hi : Nat) : bswap32 (pair64 lo hi) = bswap32 lo := by
  apply Nat.eq_of_testBit_eq; intro i
  simp only [testBit_bswap32, testBit_pair64]
  have key : i < 8 ∨ (8 ≤ i ∧ i < 16) ∨ (16 ≤ i ∧ i < 24) ∨ (24 ≤ i ∧ i < 32) ∨ 32 ≤ i := by
    omega
  rcases key with h | h | h | h | h
  all_goals simp (disch := omega) only [decide_eq_true, decide_eq_false, Bool.and_true,
      Bool.true_and, Bool.false_and, Bool.and_false, Bool.or_false, Bool.false_or]

theorem Sem.new64_2c (T : TCGTarget) {body : TCGv_i64 → TCGv_i64 → TCGv_i64 → Gen Unit}
    {n : Nat} {F : Nat → Machine → Machine} {F' : Machine → Machine} (c : Nat)
    (h : ∀ t, n ≤ t →
      Sem (body t (t + T.w64) (t + T.w64 + T.w64)) (t + T.w64 + T.w64 + T.w64) (F t))
    (hF : ∀ t, n ≤ t → ∀ m, Agree t (F t (m.set64 T (t + T.w64 + T.w64) c)) (F' m))
    (hL : Local n F') :
    Sem (tcg_temp_new_i64 T >>= fun t0 => tcg_temp_new_i64 T >>= fun t1 =>
      tcg_const_i64 T c >>= fun t2 => body t0 t1 t2) n F' := by
  have e : (tcg_temp_new_i64 T >>= fun t0 => tcg_temp_new_i64 T >>= fun t1 =>
      tcg_const_i64 T c >>= fun t2 => body t0 t1 t2) =
      (tcg_temp_new_i64 T >>= fun t0 => tcg_temp_new_i64 T >>= fun t1 =>
        tcg_temp_new_i64 T >>= fun t2 => tcg_gen_movi_i64 T t2 c >>= fun _ =>
          body t0 t1 t2) := by
    funext s
    simp only [tcg_const_i64, Gen.bind_apply, tcg_temp_new_i64, Gen.andThen_some]
    rcases tcg_gen_movi_i64 T _ c _ with ⟨_ | _, _⟩ <;> rfl
  rw [e]
  refine ⟨hL, fun s hs => ?_⟩
  obtain ⟨δ0, k0, e0, r0⟩ := (tcg_gen_movi_i64_sem T (s.nb_temps + T.w64 + T.w64) c 0).2
    { s with nb_temps := s.nb_temps + T.w64 + T.w64 + T.w64 } (Nat.zero_le _)
  obtain ⟨δ, k, e1, r⟩ := (h s.nb_temps hs).2
    ({ s with nb_temps := s.nb_temps + T.w64 + T.w64 + T.w64 }.extend δ0 k0)
    (by simp [TCGContext.extend])
  refine ⟨δ0 ++ δ, T.w64 + T.w64 + T.w64 + k0 + k, ?_, fun m => ?_⟩
  · simp only [Gen.bind_apply, tcg_temp_new_i64, Gen.andThen_some]
    rw [e0]
    simp only [Gen.andThen_some]
    rw [e1]
    simp [TCGContext.extend, Nat.add_assoc]
  · rw [run_append]
    have a1 := (r (run δ0 m)).mono (show s.nb_temps ≤
      ({ s with nb_temps := s.nb_temps + T.w64 + T.w64 + T.w64 }.extend δ0 k0).nb_temps by
        simp [TCGContext.extend]; omega)
    have a2 := (h s.nb_temps hs).1 _ (show s.nb_temps + T.w64 + T.w64 + T.w64 ≤
      s.nb_temps + T.w64 + T.w64 + T.w64 from le_refl _) _ _ (r0 m)
    exact (a1.trans (a2.mono (by omega))).trans (hF _ hs m)
theorem tcg_gen_bswap32_i64_sem (T : TCGTarget) {r a n : Nat} (h1 : a + T.w64 ≤ n)
    (hr : r + T.w64 ≤ n)
    (hra : r = a ∨ r + T.w64 ≤ a ∨ a + T.w64 ≤ r) :
    Sem (tcg_gen_bswap32_i64 T r a) n
      (fun m => m.set64 T r (bswap32 (m.get64 T a))) := by
  have hw1 := w64_pos T
  unfold tcg_gen_bswap32_i64
  cases hT : T.reg64
  · have hw := w64_of_reg32 hT
    simp only [Bool.false_eq_true, not_false_eq_true, if_true, if_false, TCGV_LOW, TCGV_HIGH]
    refine (Sem.bind (tcg_gen_bswap32_i32_sem T (r := r) (a := a) (by omega) (by omega))
      (tcg_gen_movi_i32_sem (r + 1) 0 n)).conseq (fun N _ m => ?_)
    refine Agree.of_pair hT rfl ?_ ?_ (fun i hi h1 h2 => ?_)
    · simp (disch := omega) only [Function.comp, Machine.set_regs_self, Machine.set_regs_ne,
        Machine.get64_of_reg32 hT, bswap32_pair]
      exact (Nat.mod_eq_of_lt (bswap32_lt _)).symm
    · simp (disch := omega) only [Function.comp, Machine.set_regs_self, Machine.set_regs_ne,
        Machine.get64_of_reg32 hT, bswap32_pair]
      rw [Nat.shiftRight_eq_div_pow, Nat.div_eq_of_lt (bswap32_lt _)]
    · simp (disch := omega) only [Function.comp, Machine.set_regs_ne]
  · have hw := w64_of_reg64 hT
    simp only [not_true_eq_false, if_false, if_true]
    split
    · exact Sem.op1_64 hT .bswap32_i64 (fun x => bswap32 x) (fun _ => rfl)
        (fun x _ => lt_trans (bswap32_lt x) (by norm_num)) (by omega)
    · refine Sem.new64_2c T 0x00ff00ff (fun t ht =>
        Sem.bind (tcg_gen_shri_i64_sem T (r := t) (a := a) (b := 8) (by norm_num)
          (by omega) (by omega) (by omega))
        (Sem.bind (tcg_gen_and_i64_sem T (r := t + T.w64) (a := a)
          (b := t + T.w64 + T.w64) (by omega) (by omega) (by omega) (by omega))
        (Sem.bind (tcg_gen_and_i64_sem T (r := t) (a := t)
          (b := t + T.w64 + T.w64) (by omega) (by omega) (by omega) (by omega))
        (Sem.bind (tcg_gen_shli_i64_sem T (r := t + T.w64) (a := t + T.w64) (b := 8)
          (by norm_num) (by omega) (by omega) (by omega))
        (Sem.bind (tcg_gen_or_i64_sem T (r := r) (a := t) (b := t + T.w64)
          (by omega) (by omega) (by omega) (by omega))
        (Sem.bind (tcg_gen_shli_i64_sem T (r := t + T.w64) (a := r) (b := 48)
          (by norm_num) (by omega) (by omega) (by omega))
        (Sem.bind (tcg_gen_shri_i64_sem T (r := t) (a := r) (b := 16)
          (by norm_num) (by omega) (by omega) (by omega))
        (Sem.bind (tcg_gen_shri_i64_sem T (r := t + T.w64) (a := t + T.w64) (b := 32)
          (by norm_num) (by omega) (by omega) (by omega))
        (Sem.bind (tcg_gen_or_i64_sem T (r := r) (a := t) (b := t + T.w64)
          (by omega) (by omega) (by omega) (by omega))
        (Sem.bind (Sem.pure _) (Sem.bind (Sem.pure _) (Sem.pure _))))))))))))
        (fun t ht m => ?_) (Local.set64_1 T r (fun x => bswap32 x) h1)
      simp only [Function.comp, id]
      simp (disch := omega) only [Machine.get64_set64_self, Machine.get64_set64_ne]
      refine Agree.of_set64 T (by simp) ?_ (fun i hi hne => ?_)
      · congr 1
        have hx := Machine.get64_lt T m a
        generalize m.get64 T a = x at hx
        rw [show (16711935 : Nat) = (2 ^ 8 - 1) ||| ((2 ^ 8 - 1) <<< 16) by decide]
        apply Nat.eq_of_testBit_eq; intro i
        simp only [testBit_bswap32, Nat.testBit_mod_two_pow, Nat.testBit_or, Nat.testBit_and,
          Nat.testBit_shiftRight, Nat.testBit_shiftLeft, Nat.testBit_two_pow_sub_one,
          ge_iff_le]
        have key : i < 8 ∨ (8 ≤ i ∧ i < 16) ∨ (16 ≤ i ∧ i < 24) ∨ (24 ≤ i ∧ i < 32) ∨
          (32 ≤ i ∧ i < 64) ∨ 64 ≤ i := by omega
        rcases key with h | h | h | h | h | h
        all_goals simp (disch := omega) only [decide_eq_true, decide_eq_false, Bool.and_true,
            Bool.true_and, Bool.false_and, Bool.and_false, Bool.or_false, Bool.false_or]
        all_goals congr 1; omega
      · simp (disch := omega) only [Machine.set64_regs_ne]
theorem Sem.new64_3 (T : TCGTarget) {body : TCGv_i64 → TCGv_i64 → TCGv_i64 → Gen Unit}
    {n : Nat} {F : Nat → Machine → Machine} {F' : Machine → Machine}
    (h : ∀ t, n ≤ t →
      Sem (body t (t + T.w64) (t + T.w64 + T.w64)) (t + T.w64 + T.w64 + T.w64) (F t))
    (hF : ∀ t, n ≤ t → ∀ m, Agree t (F t m) (F' m)) (hL : Local n F') :
    Sem (tcg_temp_new_i64 T >>= fun t0 => tcg_temp_new_i64 T >>= fun t1 =>
      tcg_temp_new_i64 T >>= fun t2 => body t0 t1 t2) n F' := by
  refine ⟨hL, fun s hs => ?_⟩
  obtain ⟨δ, k, e, r⟩ := (h s.nb_temps hs).2
    { s with nb_temps := s.nb_temps + T.w64 + T.w64 + T.w64 } (le_refl _)
  refine ⟨δ, T.w64 + T.w64 + T.w64 + k, ?_, fun m => ?_⟩
  · simp only [Gen.bind_apply, tcg_temp_new_i64, Gen.andThen_some]
    rw [e]
    simp [TCGContext.extend, Nat.add_assoc]
  · exact ((r m).mono (show s.nb_temps ≤ s.nb_temps + T.w64 + T.w64 + T.w64 by omega)).trans
      (hF _ hs m)

theorem bswap64_pair (lo hi : Nat) :
    bswap64 (pair64 lo hi) % 2 ^ 32 = bswap32 hi % 2 ^ 32 ∧
    (bswap64 (pair64 lo hi) >>> 32) % 2 ^ 32 = bswap32 lo % 2 ^ 32 := by
  constructor
  · apply Nat.eq_of_testBit_eq; intro i
    simp only [testBit_bswap64, testBit_bswap32, testBit_pair64, Nat.testBit_mod_two_pow]
    have key : i < 8 ∨ (8 ≤ i ∧ i < 16) ∨ (16 ≤ i ∧ i < 24) ∨ (24 ≤ i ∧ i < 32) ∨ 32 ≤ i := by
      omega
    rcases key with h | h | h | h | h
    all_goals simp (disch := omega) only [decide_eq_true, decide_eq_false, Bool.and_true,
        Bool.true_and, Bool.false_and, Bool.and_false, Bool.or_false, Bool.false_or]
    all_goals (congr 1 <;> omega)
  · apply Nat.eq_of_testBit_eq; intro i
    simp only [testBit_bswap64, testBit_bswap32, testBit_pair64, Nat.testBit_mod_two_pow,
      Nat.testBit_shiftRight]
    have key : i < 8 ∨ (8 ≤ i ∧ i < 16) ∨ (16 ≤ i ∧ i < 24) ∨ (24 ≤ i ∧ i < 32) ∨ 32 ≤ i := by
      omega
    rcases key with h | h | h | h | h
    all_goals simp (disch := omega) only [decide_eq_true, decide_eq_false, Bool.and_true,
        Bool.true_and, Bool.false_and, Bool.and_false, Bool.or_false, Bool.false_or]
    all_goals (congr 1 <;> omega)
theorem tcg_gen_bswap64_i64_sem (T : TCGTarget) {r a n : Nat} (h1 : a + T.w64 ≤ n)
    (hr : r + T.w64 ≤ n)
    (hra : r = a ∨ r + T.w64 ≤ a ∨ a + T.w64 ≤ r) :
    Sem (tcg_gen_bswap64_i64 T r a) n
      (fun m => m.set64 T r (bswap64 (m.get64 T a))) := by
  have hw1 := w64_pos T
  have hL := Local.set64_1 T r (fun x => bswap64 x) h1
  unfold tcg_gen_bswap64_i64
  cases hT : T.reg64
  · have hw := w64_of_reg32 hT
    simp only [Bool.false_eq_true, not_false_eq_true, if_true, if_false, TCGV_LOW, TCGV_HIGH]
    refine Sem.new2 hL (fun t ht =>
      Sem.bind (tcg_gen_bswap32_i32_sem T (r := t) (a := a) (by omega) (by omega))
      (Sem.bind (tcg_gen_bswap32_i32_sem T (r := t + 1) (a := a + 1) (by omega)
        (by omega))
      (Sem.bind (tcg_gen_mov_i32_sem (r := r) (a := t + 1) (by omega))
      (Sem.bind (tcg_gen_mov_i32_sem (r := r + 1) (a := t) (by omega))
      (Sem.bind (Sem.free t _) (Sem.free (t + 1) _)))))) (fun t ht m => ?_)
    refine Agree.of_pair hT rfl ?_ ?_ (fun i hi h1 h2 => ?_)
    · simp (disch := omega) only [Function.comp, id, Machine.set_regs_self,
        Machine.set_regs_ne, Machine.get64_of_reg32 hT]
      exact (bswap64_pair _ _).1.symm
    · simp (disch := omega) only [Function.comp, id, Machine.set_regs_self,
        Machine.set_regs_ne, Machine.get64_of_reg32 hT]
      exact (bswap64_pair _ _).2.symm
    · simp (disch := omega) only [Function.comp, id, Machine.set_regs_ne]
  · have hw := w64_of_reg64 hT
    simp only [not_true_eq_false, if_false, if_true]
    split
    · exact Sem.op1_64 hT .bswap64_i64 (fun x => bswap64 x) (fun _ => rfl)
        (fun x _ => bswap64_lt x) (by omega)
    · refine Sem.new64_3 T (fun t ht =>
        Sem.bind (tcg_gen_movi_i64_sem T (t + T.w64 + T.w64) 0x00ff00ff00ff00ff _)
        (Sem.bind (tcg_gen_shri_i64_sem T (r := t) (a := a) (b := 8) (by norm_num)
          (by omega) (by omega) (by omega))
        (Sem.bind (tcg_gen_and_i64_sem T (r := t + T.w64) (a := a)
          (b := t + T.w64 + T.w64) (by omega) (by omega) (by omega) (by omega))
        (Sem.bind (tcg_gen_and_i64_sem T (r := t) (a := t)
          (b := t + T.w64 + T.w64) (by omega) (by omega) (by omega) (by omega))
        (Sem.bind (tcg_gen_shli_i64_sem T (r := t + T.w64) (a := t + T.w64) (b := 8)
          (by norm_num) (by omega) (by omega) (by omega))
        (Sem.bind (tcg_gen_or_i64_sem T (r := r) (a := t) (b := t + T.w64)
          (by omega) (by omega) (by omega) (by omega))
        (Sem.bind (tcg_gen_movi_i64_sem T (t + T.w64 + T.w64) 0x0000ffff0000ffff _)
        (Sem.bind (tcg_gen_shri_i64_sem T (r := t) (a := r) (b := 16) (by norm_num)
          (by omega) (by omega) (by omega))
        (Sem.bind (tcg_gen_and_i64_sem T (r := t + T.w64) (a := r)
          (b := t + T.w64 + T.w64) (by omega) (by omega) (by omega) (by omega))
        (Sem.bind (tcg_gen_and_i64_sem T (r := t) (a := t)
          (b := t + T.w64 + T.w64) (by omega) (by omega) (by omega) (by omega))
        (Sem.bind (tcg_gen_shli_i64_sem T (r := t + T.w64) (a := t + T.w64) (b := 16)
          (by norm_num) (by omega) (by omega) (by omega))
        (Sem.bind (tcg_gen_or_i64_sem T (r := r) (a := t) (b := t + T.w64)
          (by omega) (by omega) (by omega) (by omega))
        (Sem.bind (tcg_gen_shri_i64_sem T (r := t) (a := r) (b := 32) (by norm_num)
          (by omega) (by omega) (by omega))
        (Sem.bind (tcg_gen_shli_i64_sem T (r := t + T.w64) (a := r) (b := 32)
          (by norm_num) (by omega) (by omega) (by omega))
        (Sem.bind (tcg_gen_or_i64_sem T (r := r) (a := t) (b := t + T.w64)
          (by omega) (by omega) (by omega) (by omega))
        (Sem.bind (Sem.pure _) (Sem.bind (Sem.pure _) (Sem.pure _))))))))))))))))))
        (fun t ht m => ?_) hL
      simp only [Function.comp, id]
      simp (disch := omega) only [Machine.get64_set64_self, Machine.get64_set64_ne]
      refine Agree.of_set64 T (by simp) ?_ (fun i hi hne => ?_)
      · congr 1
        have hx := Machine.get64_lt T m a
        generalize m.get64 T a = x at hx
        rw [show (71777214294589695 : Nat) % 2 ^ 64 = (2 ^ 8 - 1) ||| ((2 ^ 8 - 1) <<< 16) |||
            ((2 ^ 8 - 1) <<< 32) ||| ((2 ^ 8 - 1) <<< 48) by decide,
          show (281470681808895 : Nat) % 2 ^ 64 = (2 ^ 16 - 1) ||| ((2 ^ 16 - 1) <<< 32) by
            decide]
        apply Nat.eq_of_testBit_eq; intro i
        simp only [testBit_bswap64, Nat.testBit_mod_two_pow, Nat.testBit_or, Nat.testBit_and,
          Nat.testBit_shiftRight, Nat.testBit_shiftLeft, Nat.testBit_two_pow_sub_one,
          ge_iff_le]
        have key : i < 8 ∨ (8 ≤ i ∧ i < 16) ∨ (16 ≤ i ∧ i < 24) ∨ (24 ≤ i ∧ i < 32) ∨
            (32 ≤ i ∧ i < 40) ∨ (40 ≤ i ∧ i < 48) ∨ (48 ≤ i ∧ i < 56) ∨ (56 ≤ i ∧ i < 64) ∨
            64 ≤ i := by omega
        rcases key with h | h | h | h | h | h | h | h | h
        all_goals simp (disch := omega) only [decide_eq_true, decide_eq_false, Bool.and_true,
            Bool.true_and, Bool.false_and, Bool.and_false, Bool.or_false, Bool.false_or]
        all_goals (congr 1 <;> omega)
      · simp (disch := omega) only [Machine.set64_regs_ne]
theorem emitted_of_eq {g : Gen Unit} {s : TCGContext} {δ : List TCGOp} {k : Nat}
    (h : g s = (some (), s.extend δ k)) : emitted g s = some δ := by
  simp [emitted, h, TCGContext.extend]

/-- An emitter with a meaning emits, and the emitted ops act as the meaning says. -/
theorem Sem.emitted {g : Gen Unit} {n : Nat} {F : Machine → Machine} (h : Sem g n F)
    (s : TCGContext) (hs : n ≤ s.nb_temps) :
    ∃ δ, emitted g s = some δ ∧ ∀ m, Agree s.nb_temps (run δ m) (F m) := by
  obtain ⟨δ, k, e, r⟩ := h.2 s hs
  exact ⟨δ, emitted_of_eq e, r⟩

theorem extract_deposit (w x y o l : Nat) (h : o + l ≤ w) :
    ((deposit w x y o l % 2 ^ w) >>> o) % 2 ^ l = y % 2 ^ l := by
  apply Nat.eq_of_testBit_eq; intro i
  simp only [testBit_deposit, Nat.testBit_mod_two_pow, Nat.testBit_shiftRight]
  rcases Nat.lt_or_ge i l with hi | hi
  · simp (disch := omega) only [decide_eq_true, decide_eq_false, Bool.and_true,
      Bool.true_and, Bool.false_and, Bool.and_false, Bool.or_false, Bool.false_or,
      Bool.not_true, Bool.not_false, Nat.add_sub_cancel_left]
  · simp (disch := omega) only [decide_eq_true, decide_eq_false, Bool.and_true,
      Bool.true_and, Bool.false_and, Bool.and_false, Bool.or_false, Bool.false_or]

theorem mod_mod_pow_le (x a b : Nat) (h : a ≤ b) : x % 2 ^ b % 2 ^ a = x % 2 ^ a :=
  Nat.mod_mod_of_dvd x (Nat.pow_dvd_pow 2 h)
theorem deposit_formula (w x y ofs len : Nat) (h : ofs + len ≤ w) :
    deposit w x y ofs len =
      ((x % 2 ^ w) &&& bnot w ((2 ^ len - 1) <<< ofs)) |||
        (((y % 2 ^ w) &&& (2 ^ len - 1)) <<< ofs) := by
  unfold deposit
  congr 1
  apply Nat.eq_of_testBit_eq; intro i
  simp only [Nat.testBit_mod_two_pow, Nat.testBit_shiftLeft, Nat.testBit_and,
    Nat.testBit_two_pow_sub_one, ge_iff_le]
  rcases Nat.lt_or_ge i ofs with hi | hi
  · simp (disch := omega) only [decide_eq_true, decide_eq_false, Bool.and_true,
      Bool.true_and, Bool.false_and, Bool.and_false, Bool.or_false, Bool.false_or]
  · rcases Nat.lt_or_ge (i - ofs) len with hj | hj
    all_goals simp (disch := omega) only [decide_eq_true, decide_eq_false, Bool.and_true,
      Bool.true_and, Bool.false_and, Bool.and_false, Bool.or_false, Bool.false_or]

theorem deposit_outside (w x y ofs len i : Nat) (hi : i < w) (ho : i < ofs ∨ ofs + len ≤ i) :
    (deposit w x y ofs len).testBit i = x.testBit i := by
  rw [testBit_deposit]
  rcases ho with ho | ho
  all_goals simp (disch := omega) only [decide_eq_true, decide_eq_false, Bool.and_true,
      Bool.true_and, Bool.false_and, Bool.and_false, Bool.or_false, Bool.false_or,
      Bool.not_true, Bool.not_false]

theorem deposit_example : deposit 32 0x12345678 0xAB 8 8 = 0x1234AB78 := by
  decide

theorem sext_lt (w len x : Nat) (h : len ≤ w) : sext w len x < 2 ^ w := by
  apply Nat.lt_pow_two_of_testBit
  intro i hi
  rw [testBit_sext]
  simp (disch := omega) only [decide_eq_true, decide_eq_false, Bool.and_true,
    Bool.true_and, Bool.false_and, Bool.and_false, Bool.or_false, Bool.false_or]

/-- Bit `i` of the sign-extended field is bit `ofs + i` of the source inside the
field and the top bit of the field above it. -/
theorem testBit_sext_field (w x ofs len i : Nat) (h0 : 0 < len) (h : ofs + len ≤ w)
    (hi : i < w) :
    (sext w len ((x % 2 ^ w) >>> ofs)).testBit i = x.testBit (ofs + min i (len - 1)) := by
  rw [testBit_sext]
  simp only [Nat.testBit_shiftRight, Nat.testBit_mod_two_pow]
  rcases Nat.lt_or_ge i len with hj | hj
  · rw [Nat.min_eq_left (by omega)]
    simp (disch := omega) only [decide_eq_true, decide_eq_false, Bool.and_true,
      Bool.true_and, Bool.false_and, Bool.and_false, Bool.or_false, Bool.false_or]
  · rw [Nat.min_eq_right (by omega)]
    simp (disch := omega) only [decide_eq_true, decide_eq_false, Bool.and_true,
      Bool.true_and, Bool.false_and, Bool.and_false, Bool.or_false, Bool.false_or]

theorem sextract_example :
    sext 32 8 ((0xFFFFFF80 % 2 ^ 32) >>> 0) = 0xFFFFFF80 ∧ toInt 32 0xFFFFFF80 = -128 := by
  constructor
  · decide
  · decide
theorem rotr_lt (w x n : Nat) : rotr w x n < 2 ^ w := Nat.mod_lt _ (Nat.two_pow_pos w)

theorem rotl_rotr (w x n : Nat) (hn : n < w) : rotl w (rotr w x n) n = x % 2 ^ w := by
  apply Nat.eq_of_testBit_eq; intro i
  simp only [testBit_rotl w _ n i hn, testBit_rotr w _ n _ hn, Nat.testBit_mod_two_pow]
  rcases Nat.lt_or_ge i w with hi | hi
  · rcases Nat.lt_or_ge i n with hj | hj
    · simp (disch := omega) only [decide_eq_true, decide_eq_false, Bool.and_true,
        Bool.true_and, Bool.false_and, Bool.and_false, Bool.or_false, Bool.false_or]
      congr 1; omega
    · simp (disch := omega) only [decide_eq_true, decide_eq_false, Bool.and_true,
        Bool.true_and, Bool.false_and, Bool.and_false, Bool.or_false, Bool.false_or]
      congr 1; omega
  · simp (disch := omega) only [decide_eq_true, decide_eq_false, Bool.and_true,
      Bool.true_and, Bool.false_and, Bool.and_false, Bool.or_false, Bool.false_or]
theorem bswap16_bswap16 (x : Nat) : bswap16 (bswap16 x) = x % 2 ^ 16 := by
  apply Nat.eq_of_testBit_eq; intro i
  simp only [testBit_bswap16, Nat.testBit_mod_two_pow]
  have key : i < 8 ∨ (8 ≤ i ∧ i < 16) ∨ 16 ≤ i := by omega
  rcases key with h | h | h
  all_goals simp (disch := omega) only [decide_eq_true, decide_eq_false, Bool.and_true,
      Bool.true_and, Bool.false_and, Bool.and_false, Bool.or_false, Bool.false_or]
  all_goals (congr 1 <;> omega)

theorem bswap32_bswap32 (x : Nat) : bswap32 (bswap32 x) = x % 2 ^ 32 := by
  apply Nat.eq_of_testBit_eq; intro i
  simp only [testBit_bswap32, Nat.testBit_mod_two_pow]
  have key : i < 8 ∨ (8 ≤ i ∧ i < 16) ∨ (16 ≤ i ∧ i < 24) ∨ (24 ≤ i ∧ i < 32) ∨ 32 ≤ i := by
    omega
  rcases key with h | h | h | h | h
  all_goals simp (disch := omega) only [decide_eq_true, decide_eq_false, Bool.and_true,
      Bool.true_and, Bool.false_and, Bool.and_false, Bool.or_false, Bool.false_or]
  all_goals (congr 1 <;> omega)

theorem bswap64_bswap64 (x : Nat) : bswap64 (bswap64 x) = x % 2 ^ 64 := by
  apply Nat.eq_of_testBit_eq; intro i
  simp only [testBit_bswap64, Nat.testBit_mod_two_pow]
  have key : i < 8 ∨ (8 ≤ i ∧ i < 16) ∨ (16 ≤ i ∧ i < 24) ∨ (24 ≤ i ∧ i < 32) ∨
      (32 ≤ i ∧ i < 40) ∨ (40 ≤ i ∧ i < 48) ∨ (48 ≤ i ∧ i < 56) ∨ (56 ≤ i ∧ i < 64) ∨
      64 ≤ i := by omega
  rcases key with h | h | h | h | h | h | h | h | h
  all_goals simp (disch := omega) only [decide_eq_true, decide_eq_false, Bool.and_true,
      Bool.true_and, Bool.false_and, Bool.and_false, Bool.or_false, Bool.false_or]
  all_goals (congr 1 <;> omega)

/-- On an input with zero bytes above the low two, both paths of the 32-bit
container swap give the byte swap. -/
theorem bswap16_path32 (c : Bool) (x : Nat) (hx : x < 2 ^ 16) :
    (if c = true then bswap16 (x % 2 ^ 32)
      else ((x % 2 ^ 32) >>> 8) ||| ((x % 2 ^ 8) <<< 8)) = bswap16 x := by
  have e : x % 2 ^ 32 = x := Nat.mod_eq_of_lt (lt_trans hx (by norm_num))
  rw [e]
  split
  · rfl
  · exact bswap16_synth_eq x hx

/-- On an input with zero bytes above the low two, every path of the 64-bit
container swap gives the byte swap. -/
theorem bswap16_path64 (c1 c2 c3 : Bool) (x : Nat) (hx : x < 2 ^ 16) :
    (if c1 = true then
        (if c2 = true then bswap16 x else (x >>> 8) ||| ((x % 2 ^ 8) <<< 8))
      else
        (if c3 = true then bswap16 (x % 2 ^ 32)
          else ((x % 2 ^ 32) >>> 8) ||| ((x % 2 ^ 8) <<< 8))) = bswap16 x := by
  split
  · split
    · rfl
    · exact bswap16_synth_eq x hx
  · exact bswap16_path32 c3 x hx
theorem deposit_i32_full_emitted (T : TCGTarget) (s : TCGContext) (ret base value : Nat) :
    emitted (tcg_gen_deposit_i32 T ret base value 0 32) s =
      some [⟨.mov_i32, [ret, value]⟩] := by
  unfold tcg_gen_deposit_i32
  simp [emitted, Gen.bind_apply, Gen.andThen_some, tcg_debug_assert, tcg_gen_mov_i32, tcg_gen_op2, tcg_emit_op]

theorem deposit_i64_full_emitted (T : TCGTarget) (s : TCGContext) (ret base value : Nat) :
    emitted (tcg_gen_deposit_i64 T ret base value 0 64) s =
      some (mov_i64_ops T ret value) := by
  unfold tcg_gen_deposit_i64 mov_i64_ops
  cases hT : T.reg64 <;>
  simp [emitted, Gen.bind_apply, Gen.andThen_some, tcg_debug_assert, tcg_gen_mov_i64, tcg_gen_mov_i32, tcg_gen_op2,
    tcg_emit_op, hT]

theorem mov_i64_emitted (T : TCGTarget) (s : TCGContext) (ret value : Nat) :
    emitted (tcg_gen_mov_i64 T ret value) s = some (mov_i64_ops T ret value) := by
  unfold tcg_gen_mov_i64 mov_i64_ops
  cases hT : T.reg64 <;>
  simp [emitted, Gen.bind_apply, Gen.andThen_some, tcg_gen_mov_i32, tcg_gen_op2, tcg_emit_op, hT]

theorem mov_i64_ops_run (T : TCGTarget) (m : Machine) (ret value : Nat)
    (h : T.sep ret value) :
    (run (mov_i64_ops T ret value) m).get64 T ret = m.get64 T value := by
  have hw := w64_pos T
  obtain ⟨δ, e, r⟩ := (tcg_gen_mov_i64_sem T (r := ret) (a := value)
    (n := ret + value + T.w64) (by omega) h).emitted
    (TCGContext.fresh (ret + value + T.w64)) (le_refl _)
  rw [mov_i64_emitted] at e
  cases e
  rw [(r m).get64 T (show ret + T.w64 ≤ (TCGContext.fresh (ret + value + T.w64)).nb_temps by
    simp only [TCGContext.fresh]; omega)]
  rw [Machine.get64_set64_self, Nat.mod_eq_of_lt (Machine.get64_lt T m value)]
theorem shift64_lt (right arith : Bool) (x c : Nat) (hx : x < 2 ^ 64) :
    shift64 right arith x c < 2 ^ 64 := by
  unfold shift64
  cases right <;> cases arith <;> simp only [Bool.false_eq_true, if_false, if_true]
  · exact Nat.mod_lt _ (by norm_num)
  · exact Nat.mod_lt _ (by norm_num)
  · exact shr_lt_two_pow64 _ _ hx
  · exact sar_lt 64 _ _

/-- Bit `i` of an arithmetic right shift by `c` is bit `c + i` of the source,
or the sign bit once `c + i` passes the top. -/
theorem testBit_sar64 (x c i : Nat) (hc : c < 64) (hi : i < 64) :
    (sar 64 x c).testBit i = x.testBit (min (c + i) 63) := by
  rw [testBit_sar]
  rcases Nat.lt_or_ge (c + i) 64 with h | h
  · rw [Nat.min_eq_left (by omega)]
    simp (disch := omega) only [decide_eq_true, decide_eq_false, Bool.and_true,
      Bool.true_and, Bool.false_and, Bool.and_false, Bool.or_false, Bool.false_or]
  · rw [Nat.min_eq_right (by omega)]
    simp (disch := omega) only [decide_eq_true, decide_eq_false, Bool.and_true,
      Bool.true_and, Bool.false_and, Bool.and_false, Bool.or_false, Bool.false_or]

theorem Machine.get64_pair {T : TCGTarget} (hT : T.reg64 = false) (m : Machine) (t : Nat) :
    pair64 (m.regs (TCGV_LOW t)) (m.regs (TCGV_HIGH t)) = m.get64 T t := by
  rw [Machine.get64_of_reg32 hT]; rfl
theorem and_bnot_and_self (x k : Nat) : (x &&& bnot 32 k) &&& k = 0 := by
  apply Nat.eq_of_testBit_eq; intro i
  simp only [Nat.testBit_and, testBit_bnot, Nat.zero_testBit]
  cases x.testBit i <;> cases k.testBit i <;> simp

theorem testBit_and_bnot (x k i : Nat) (hx : x < 2 ^ 32) :
    (x &&& bnot 32 k).testBit i = (x.testBit i && !k.testBit i) := by
  simp only [Nat.testBit_and, testBit_bnot]
  rcases Nat.lt_or_ge i 32 with h | h
  · simp (disch := omega) only [decide_eq_true, Bool.true_and]
  · rw [Nat.testBit_lt_two_pow (lt_of_lt_of_le hx (Nat.pow_le_pow_right (by norm_num) h))]
    simp

theorem and_bnot_and_other (x k j : Nat) (hj : j < 2 ^ 32) (hkj : k &&& j = 0) :
    (x &&& bnot 32 k) &&& j = x &&& j := by
  apply Nat.eq_of_testBit_eq; intro i
  have h1 := congrArg (fun y => y.testBit i) hkj
  simp only [Nat.testBit_and, Nat.zero_testBit] at h1
  simp only [Nat.testBit_and, testBit_bnot]
  rcases Nat.lt_or_ge i 32 with h | h
  · simp (disch := omega) only [decide_eq_true, Bool.true_and]
    cases hk : k.testBit i <;> cases hjb : j.testBit i <;> simp_all
  · rw [Nat.testBit_lt_two_pow (lt_of_lt_of_le hj (Nat.pow_le_pow_right (by norm_num) h))]
    simp

/-- The outcome of `tcg_canonicalize_memop`, case by case. -/
theorem tcg_canonicalize_memop_eq (T : TCGTarget) (op : Nat) (is64 st : Bool)
    (s : TCGContext) :
    tcg_canonicalize_memop T op is64 st s =
      (if T.alignment_valid op = true then
        (if op &&& MO_SIZE = MO_8 then
            some (if st = true then (op &&& bnot 32 MO_BSWAP) &&& bnot 32 MO_SIGN
                  else op &&& bnot 32 MO_BSWAP)
         else if op &&& MO_SIZE = MO_16 then
            some (if st = true then op &&& bnot 32 MO_SIGN else op)
         else if op &&& MO_SIZE = MO_32 then
            some (if st = true then
                    (if is64 = true then op else op &&& bnot 32 MO_SIGN) &&& bnot 32 MO_SIGN
                  else (if is64 = true then op else op &&& bnot 32 MO_SIGN))
         else if is64 = true then
            some (if st = true then op &&& bnot 32 MO_SIGN else op)
         else none)
       else none, s) := by
  unfold tcg_canonicalize_memop get_alignment_bits
  simp only [Gen.bind_apply, tcg_debug_assert]
  cases T.alignment_valid op
  · simp [Gen.andThen]
  · simp only [if_true, Gen.andThen_some, Gen.bind_apply]
    by_cases h8 : op &&& MO_SIZE = MO_8
    · simp only [h8, if_true]; rfl
    · by_cases h16 : op &&& MO_SIZE = MO_16
      · simp only [h8, h16, if_true, if_false]; rfl
      · by_cases h32 : op &&& MO_SIZE = MO_32
        · simp only [h8, h16, h32, if_true, if_false]
          cases is64 <;> rfl
        · simp only [h8, h16, h32, if_false]
          cases is64 <;> rfl
theorem memop_clear_facts (x : Nat) :
    (x &&& bnot 32 MO_SIGN) &&& MO_SIGN = 0 ∧ (x &&& bnot 32 MO_BSWAP) &&& MO_BSWAP = 0 ∧
    (x &&& bnot 32 MO_SIGN) &&& MO_SIZE = x &&& MO_SIZE ∧
    (x &&& bnot 32 MO_BSWAP) &&& MO_SIZE = x &&& MO_SIZE ∧
    (x &&& bnot 32 MO_SIGN) &&& MO_BSWAP = x &&& MO_BSWAP ∧
    (x &&& bnot 32 MO_BSWAP) &&& MO_SIGN = x &&& MO_SIGN ∧
    (x &&& bnot 32 MO_SIGN) &&& MO_AMASK = x &&& MO_AMASK ∧
    (x &&& bnot 32 MO_BSWAP) &&& MO_AMASK = x &&& MO_AMASK :=
  ⟨and_bnot_and_self _ _, and_bnot_and_self _ _,
   and_bnot_and_other _ _ _ (by decide) (by decide),
   and_bnot_and_other _ _ _ (by decide) (by decide),
   and_bnot_and_other _ _ _ (by decide) (by decide),
   and_bnot_and_other _ _ _ (by decide) (by decide),
   and_bnot_and_other _ _ _ (by decide) (by decide),
   and_bnot_and_other _ _ _ (by decide) (by decide)⟩

/-- What `tcg_canonicalize_memop` returns, when it returns: `op` with `MO_BSWAP`
cleared for a byte access, `MO_SIGN` cleared for a 32-bit access into a 32-bit
container, and `MO_SIGN` cleared for a store. -/
theorem tcg_canonicalize_memop_some (T : TCGTarget) (op : Nat) (is64 st : Bool)
    (s s' : TCGContext) (r : Nat)
    (h : tcg_canonicalize_memop T op is64 st s = (some r, s')) :
    s' = s ∧ T.alignment_valid op = true ∧ (is64 = false → op &&& MO_SIZE ≠ MO_64) ∧
    r = (fun x => if st = true then x &&& bnot 32 MO_SIGN else x)
      (if op &&& MO_SIZE = MO_8 then op &&& bnot 32 MO_BSWAP
       else if op &&& MO_SIZE = MO_32 ∧ is64 = false then op &&& bnot 32 MO_SIGN else op) := by
  rw [tcg_canonicalize_memop_eq] at h
  simp only [Prod.mk.injEq] at h
  obtain ⟨h, rfl⟩ := h
  refine ⟨rfl, ?_⟩
  by_cases ha : T.alignment_valid op = true
  swap
  · simp [ha] at h
  refine ⟨ha, ?_⟩
  simp only [ha, if_true] at h
  by_cases h8 : op &&& MO_SIZE = MO_8
  · simp only [h8, if_true, Option.some.injEq] at h
    refine ⟨fun _ => by rw [h8]; decide, ?_⟩
    simp only [h8, if_true]
    exact h.symm
  simp only [h8, if_false] at h
  by_cases h16 : op &&& MO_SIZE = MO_16
  · simp only [h16, if_true, Option.some.injEq] at h
    refine ⟨fun _ => by rw [h16]; decide, ?_⟩
    have : ¬ (op &&& MO_SIZE = MO_32 ∧ is64 = false) := by
      rw [h16]; intro hc; exact absurd hc.1 (by decide)
    simp only [h8, this, if_false]
    exact h.symm
  simp only [h16, if_false] at h
  by_cases h32 : op &&& MO_SIZE = MO_32
  · simp only [h32, if_true, Option.some.injEq] at h
    refine ⟨fun _ => by rw [h32]; decide, ?_⟩
    simp only [h8, h32, true_and, if_false]
    cases is64 <;> simp_all
  simp only [h32, if_false] at h
  cases is64
  · simp at h
  · simp only [if_true, Option.some.injEq] at h
    refine ⟨fun hc => by simp at hc, ?_⟩
    simp only [h8, h32, false_and, if_false]
    exact h.symm
theorem memop_size_cases (op : Nat) :
    op &&& MO_SIZE = MO_8 ∨ op &&& MO_SIZE = MO_16 ∨ op &&& MO_SIZE = MO_32 ∨
      op &&& MO_SIZE = MO_64 := by
  have h : op &&& MO_SIZE = op % 4 := Nat.and_pow_two_sub_one_eq_mod op 2
  rw [h]
  simp only [MO_8, MO_16, MO_32, MO_64]
  omega

theorem testBit_clear_sign (x i : Nat) (hx : x < 2 ^ 32) (hi : i ≠ 2) :
    (x &&& bnot 32 MO_SIGN).testBit i = x.testBit i := by
  rw [testBit_and_bnot x _ i hx, show MO_SIGN = 2 ^ 2 by rfl, Nat.testBit_two_pow]
  simp [Ne.symm hi]

theorem testBit_clear_bswap (x i : Nat) (hx : x < 2 ^ 32) (hi : i ≠ 3) :
    (x &&& bnot 32 MO_BSWAP).testBit i = x.testBit i := by
  rw [testBit_and_bnot x _ i hx, show MO_BSWAP = 2 ^ 3 by rfl, Nat.testBit_two_pow]
  simp [Ne.symm hi]

theorem and_bnot_lt (x k : Nat) (hx : x < 2 ^ 32) : x &&& bnot 32 k < 2 ^ 32 :=
  lt_of_le_of_lt Nat.and_le_left hx
theorem tcg_gen_mb_eq (mb_type : Nat) (s : TCGContext) :
    tcg_gen_mb mb_type s =
      (some (), if s.tb_cflags &&& CF_PARALLEL ≠ 0 then
        { s with ops := s.ops ++ [⟨.mb, [mb_type]⟩] } else s) := by
  unfold tcg_gen_mb
  simp only [Gen.bind_apply, tb_cflags, Gen.andThen_some]
  split <;> rfl

theorem tcg_gen_req_mo_eq (T : TCGTarget) (type : Nat) (s : TCGContext) :
    tcg_gen_req_mo T type s =
      (some (), if req_mo_mask T type ≠ 0 ∧ s.tb_cflags &&& CF_PARALLEL ≠ 0 then
        { s with ops := s.ops ++ [⟨.mb, [req_mo_mask T type ||| TCG_BAR_SC]⟩] } else s) := by
  unfold tcg_gen_req_mo
  show (if req_mo_mask T type ≠ 0 then tcg_gen_mb (req_mo_mask T type ||| TCG_BAR_SC)
    else pure ()) s = _
  by_cases h : req_mo_mask T type ≠ 0
  · rw [if_pos h, tcg_gen_mb_eq]
    by_cases hp : s.tb_cflags &&& CF_PARALLEL ≠ 0
    · rw [if_pos hp, if_pos ⟨h, hp⟩]
    · rw [if_neg hp, if_neg (fun hc => hp hc.2)]
  · rw [if_neg h, if_neg (fun hc => h hc.1)]
    rfl
theorem assert_bind_false {α : Type} (c : Bool) (hc : c = false) (k : Unit → Gen α)
    (s : TCGContext) : (tcg_debug_assert c >>= k) s = (none, s) := by
  subst hc; rfl

theorem assert_bind_true {α : Type} (c : Bool) (hc : c = true) (k : Unit → Gen α)
    (s : TCGContext) : (tcg_debug_assert c >>= k) s = k () s := by
  subst hc; rfl

theorem const_shift_i32_abort (T : TCGTarget) (ret arg n : Nat) (h : 32 ≤ n) (s : TCGContext) :
    tcg_gen_shli_i32 ret arg n s = (none, s) ∧ tcg_gen_shri_i32 ret arg n s = (none, s) ∧
    tcg_gen_sari_i32 ret arg n s = (none, s) ∧ tcg_gen_rotli_i32 T ret arg n s = (none, s) ∧
    tcg_gen_rotri_i32 T ret arg n s = (none, s) := by
  have hc : decide (n < 32) = false := by simp; omega
  refine ⟨?_, ?_, ?_, ?_, ?_⟩
  · exact assert_bind_false _ hc _ s
  · exact assert_bind_false _ hc _ s
  · exact assert_bind_false _ hc _ s
  · exact assert_bind_false _ hc _ s
  · exact assert_bind_false _ hc _ s

theorem const_shift_i64_abort (T : TCGTarget) (ret arg n : Nat) (h : 64 ≤ n) (s : TCGContext) :
    tcg_gen_shli_i64 T ret arg n s = (none, s) ∧ tcg_gen_shri_i64 T ret arg n s = (none, s) ∧
    tcg_gen_sari_i64 T ret arg n s = (none, s) ∧ tcg_gen_rotli_i64 T ret arg n s = (none, s) ∧
    tcg_gen_rotri_i64 T ret arg n s = (none, s) := by
  have hc : decide (n < 64) = false := by simp; omega
  refine ⟨?_, ?_, ?_, ?_, ?_⟩
  · exact assert_bind_false _ hc _ s
  · exact assert_bind_false _ hc _ s
  · exact assert_bind_false _ hc _ s
  · exact assert_bind_false _ hc _ s
  · exact assert_bind_false _ hc _ s

theorem const_shift_i32_zero (T : TCGTarget) (ret arg : Nat) (s : TCGContext) :
    tcg_gen_shli_i32 ret arg 0 s = tcg_gen_mov_i32 ret arg s ∧
    tcg_gen_shri_i32 ret arg 0 s = tcg_gen_mov_i32 ret arg s ∧
    tcg_gen_sari_i32 ret arg 0 s = tcg_gen_mov_i32 ret arg s ∧
    tcg_gen_rotli_i32 T ret arg 0 s = tcg_gen_mov_i32 ret arg s ∧
    tcg_gen_rotri_i32 T ret arg 0 s = tcg_gen_mov_i32 ret arg s :=
  ⟨rfl, rfl, rfl, rfl, rfl⟩

theorem tcg_gen_mov_i64_eq (T : TCGTarget) (ret arg : Nat) (s : TCGContext) :
    tcg_gen_mov_i64 T ret arg s = (some (), { s with ops := s.ops ++ mov_i64_ops T ret arg }) := by
  unfold tcg_gen_mov_i64 mov_i64_ops
  cases T.reg64
  · simp [Gen.bind_apply, Gen.andThen, tcg_gen_mov_i32, tcg_gen_op2, tcg_emit_op]
  · simp [tcg_gen_op2, tcg_emit_op]

theorem shifti_i64_zero (T : TCGTarget) (hT : T.reg64 = false) (ret arg : Nat)
    (right arith : Bool) (s : TCGContext) :
    tcg_gen_shifti_i64 T ret arg 0 right arith s = tcg_gen_mov_i64 T ret arg s := by
  unfold tcg_gen_shifti_i64 tcg_gen_mov_i64
  rw [hT]
  rfl

theorem const_shift_i64_zero (T : TCGTarget) (ret arg : Nat) (s : TCGContext) :
    tcg_gen_shli_i64 T ret arg 0 s = tcg_gen_mov_i64 T ret arg s ∧
    tcg_gen_shri_i64 T ret arg 0 s = tcg_gen_mov_i64 T ret arg s ∧
    tcg_gen_sari_i64 T ret arg 0 s = tcg_gen_mov_i64 T ret arg s ∧
    tcg_gen_rotli_i64 T ret arg 0 s = tcg_gen_mov_i64 T ret arg s ∧
    tcg_gen_rotri_i64 T ret arg 0 s = tcg_gen_mov_i64 T ret arg s := by
  refine ⟨?_, ?_, ?_, rfl, rfl⟩
  all_goals
    cases hT : T.reg64
    · first
      | (unfold tcg_gen_shli_i64; rw [assert_bind_true _ (by decide)]; simp only [hT]
         exact shifti_i64_zero T hT ret arg _ _ s)
      | (unfold tcg_gen_shri_i64; rw [assert_bind_true _ (by decide)]; simp only [hT]
         exact shifti_i64_zero T hT ret arg _ _ s)
      | (unfold tcg_gen_sari_i64; rw [assert_bind_true _ (by decide)]; simp only [hT]
         exact shifti_i64_zero T hT ret arg _ _ s)
    · first
      | (unfold tcg_gen_shli_i64; rw [assert_bind_true _ (by decide)]; simp [hT])
      | (unfold tcg_gen_shri_i64; rw [assert_bind_true _ (by decide)]; simp [hT])
      | (unfold tcg_gen_sari_i64; rw [assert_bind_true _ (by decide)]; simp [hT])
theorem bind_abort_of {α β : Type} (x : Gen α) (k : α → Gen β) (s s' : TCGContext)
    (h : x s = (none, s')) : (x >>= k) s = (none, s') := by
  rw [Gen.bind_apply, h]; rfl

theorem bind_some_of {α β : Type} (x : Gen α) (k : α → Gen β) (s s' : TCGContext) (a : α)
    (h : x s = (some a, s')) : (x >>= k) s = k a s' := by
  rw [Gen.bind_apply, h]; rfl

theorem tcg_canonicalize_memop_state (T : TCGTarget) (op : Nat) (is64 st : Bool)
    (s : TCGContext) : (tcg_canonicalize_memop T op is64 st s).2 = s := by
  rw [tcg_canonicalize_memop_eq]

theorem tcg_canonicalize_memop_indep (T : TCGTarget) (op : Nat) (is64 st : Bool)
    (s s' : TCGContext) :
    (tcg_canonicalize_memop T op is64 st s').1 = (tcg_canonicalize_memop T op is64 st s).1 := by
  rw [tcg_canonicalize_memop_eq, tcg_canonicalize_memop_eq]

theorem tcg_canonicalize_memop_none (T : TCGTarget) (op : Nat) (is64 st : Bool)
    (s s' : TCGContext) (h : (tcg_canonicalize_memop T op is64 st s).1 = none) :
    tcg_canonicalize_memop T op is64 st s' = (none, s') := by
  have h1 := tcg_canonicalize_memop_indep T op is64 st s s'
  have h2 := tcg_canonicalize_memop_state T op is64 st s'
  rw [h] at h1
  exact Prod.ext h1 h2

/-- The context left by `tcg_gen_req_mo`. -/
theorem tcg_gen_req_mo_snd (T : TCGTarget) (type : Nat) (s : TCGContext) :
    tcg_gen_req_mo T type s = (some (), (tcg_gen_req_mo T type s).2) := by
  rw [tcg_gen_req_mo_eq]

theorem qemu_ld_i32_reject (T : TCGTarget) (val addr idx memop : Nat) (s : TCGContext)
    (h : (tcg_canonicalize_memop T memop false false s).1 = none) :
    tcg_gen_qemu_ld_i32_with_checked_addr T val addr idx memop s =
      (none, (tcg_gen_req_mo T (TCG_MO_LD_LD ||| TCG_MO_ST_LD) s).2) := by
  unfold tcg_gen_qemu_ld_i32_with_checked_addr
  rw [bind_some_of _ _ s _ () (tcg_gen_req_mo_snd T _ s)]
  exact bind_abort_of _ _ _ _ (tcg_canonicalize_memop_none T memop false false s _ h)

theorem qemu_st_i32_reject (T : TCGTarget) (val addr idx memop : Nat) (inv : Bool)
    (s : TCGContext) (h : (tcg_canonicalize_memop T memop false true s).1 = none) :
    tcg_gen_qemu_st_i32_with_checked_addr_cond_invalidate T val addr idx memop inv s =
      (none, (tcg_gen_req_mo T (TCG_MO_LD_ST ||| TCG_MO_ST_ST) s).2) := by
  unfold tcg_gen_qemu_st_i32_with_checked_addr_cond_invalidate
  rw [bind_some_of _ _ s _ () (tcg_gen_req_mo_snd T _ s)]
  exact bind_abort_of _ _ _ _ (tcg_canonicalize_memop_none T memop false true s _ h)

theorem qemu_ld_i64_reject (T : TCGTarget) (val addr idx memop : Nat) (s : TCGContext)
    (h : (tcg_canonicalize_memop T memop
      (decide (¬ (¬ T.reg64 ∧ memop &&& MO_SIZE < MO_64))) false s).1 = none) :
    tcg_gen_qemu_ld_i64_with_checked_addr T val addr idx memop s =
      (none, (tcg_gen_req_mo T (TCG_MO_LD_LD ||| TCG_MO_ST_LD) s).2) := by
  unfold tcg_gen_qemu_ld_i64_with_checked_addr
  by_cases c : ¬ T.reg64 ∧ memop &&& MO_SIZE < MO_64
  · rw [if_pos c]
    have h' : (tcg_canonicalize_memop T memop false false s).1 = none := by
      rw [decide_eq_false (not_not.mpr c)] at h; exact h
    exact bind_abort_of _ _ _ _ (qemu_ld_i32_reject T _ addr idx memop s h')
  · rw [if_neg c]
    have h' : (tcg_canonicalize_memop T memop true false s).1 = none := by
      rw [decide_eq_true c] at h; exact h
    rw [bind_some_of _ _ s _ () (tcg_gen_req_mo_snd T _ s)]
    exact bind_abort_of _ _ _ _ (tcg_canonicalize_memop_none T memop true false s _ h')

theorem qemu_st_i64_reject (T : TCGTarget) (val addr idx memop : Nat) (inv : Bool)
    (s : TCGContext)
    (h : (tcg_canonicalize_memop T memop
      (decide (¬ (¬ T.reg64 ∧ memop &&& MO_SIZE < MO_64))) true s).1 = none) :
    tcg_gen_qemu_st_i64_with_checked_addr_cond_invalidate T val addr idx memop inv s =
      (none, (tcg_gen_req_mo T (TCG_MO_LD_ST ||| TCG_MO_ST_ST) s).2) := by
  unfold tcg_gen_qemu_st_i64_with_checked_addr_cond_invalidate
  by_cases c : ¬ T.reg64 ∧ memop &&& MO_SIZE < MO_64
  · rw [if_pos c]
    have h' : (tcg_canonicalize_memop T memop false true s).1 = none := by
      rw [decide_eq_false (not_not.mpr c)] at h; exact h
    exact qemu_st_i32_reject T _ addr idx memop inv s h'
  · rw [if_neg c]
    have h' : (tcg_canonicalize_memop T memop true true s).1 = none := by
      rw [decide_eq_true c] at h; exact h
    rw [bind_some_of _ _ s _ () (tcg_gen_req_mo_snd T _ s)]
    exact bind_abort_of _ _ _ _ (tcg_canonicalize_memop_none T memop true true s _ h')
theorem tcg_gen_sextract_i32_bad_ofs (T : TCGTarget) (ret arg ofs len : Nat) (h : 32 ≤ ofs)
    (s : TCGContext) : tcg_gen_sextract_i32 T ret arg ofs len s = (none, s) := by
  unfold tcg_gen_sextract_i32
  exact assert_bind_false _ (by simp; omega) _ s

theorem tcg_gen_sextract_i64_straddle (T : TCGTarget) (hT : T.reg64 = false)
    (ret arg ofs len : Nat) (h0 : 0 < ofs) (h1 : ofs < 32) (h2 : 32 < len)
    (h3 : ofs + len < 64) (s : TCGContext) :
    tcg_gen_sextract_i64 T ret arg ofs len s =
      (none, { s with nb_temps := s.nb_temps + 1 }) := by
  unfold tcg_gen_sextract_i64
  rw [assert_bind_true _ (by simp; omega), assert_bind_true _ (by simp; omega),
    assert_bind_true _ (by simp; omega), assert_bind_true _ (by simp; omega)]
  have e1 : ¬ (ofs + len = 64) := by omega
  have e2 : ¬ (ofs = 0 ∧ len = 32) := by omega
  have e3 : ¬ (ofs = 0 ∧ len = 16) := by omega
  have e4 : ¬ (ofs = 0 ∧ len = 8) := by omega
  have e5 : ¬ (ofs ≥ 32) := by omega
  have e6 : ¬ (ofs + len ≤ 32) := by omega
  have e7 : ¬ (ofs = 0) := by omega
  simp only [e1, e2, e3, e4, e5, e6, e7, hT, h2, if_false, if_true, Bool.false_eq_true,
    not_false_eq_true, false_and]
  rw [Gen.bind_apply]
  show Gen.andThen (some s.nb_temps, { s with nb_temps := s.nb_temps + 1 }) _ = _
  rw [Gen.andThen_some]
  exact bind_abort_of _ _ _ _ (tcg_gen_sextract_i32_bad_ofs T _ _ _ _ (by omega) _)
theorem Sem.call_id (h : Helper) (args : List TCGArg) (n : Nat)
    (hh : ∀ m, exec_op ⟨.call, h.toCtorIdx :: args⟩ m = m) :
    Sem (tcg_gen_callN h args) n id := by
  have e : exec_op ⟨.call, h.toCtorIdx :: args⟩ = id := funext hh
  have := Sem.emit .call (h.toCtorIdx :: args) n (by rw [e]; exact Local.id n)
  rw [e] at this
  exact this

theorem Sem.bind_id {g1 : Gen Unit} {k : Unit → Gen Unit} {n : Nat}
    (h1 : Sem g1 n id) (h2 : Sem (k ()) n id) : Sem (g1 >>= k) n id :=
  (Sem.bind h1 h2).conseq (fun _ _ m => Agree.refl _ _)

theorem Sem.ite (c : Prop) [Decidable c] {g h : Gen Unit} {n : Nat} {F : Machine → Machine}
    (hg : Sem g n F) (hh : Sem h n F) : Sem (if c then g else h) n F := by
  split <;> assumption

theorem Sem.const_id {body : TCGv_i32 → Gen Unit} {n : Nat} (c : Nat)
    (h : ∀ t, n ≤ t → Sem (body t) (t + 1) id) : Sem (tcg_const_i32 c >>= body) n id :=
  Sem.const (F := fun _ => id) c (Local.id n) h
    (fun t _ m => ⟨rfl, fun i hi => Machine.set_regs_ne _ _ (by omega)⟩)

theorem gen_cheri_break_loadlink_sem (addr op n : Nat) :
    Sem (gen_cheri_break_loadlink addr op) n id :=
  Sem.call_id _ _ n (fun _ => rfl)

theorem gen_cheri_invalidate_tags_sem (T : TCGTarget) (addr op idx n : Nat) :
    Sem (gen_cheri_invalidate_tags T addr op idx) n id := by
  unfold gen_cheri_invalidate_tags
  apply Sem.ite
  · exact Sem.call_id _ _ n (fun _ => rfl)
  · refine Sem.const_id idx (fun t ht => ?_)
    exact Sem.bind_id (Sem.call_id _ _ _ (fun _ => rfl)) (Sem.pure _)

theorem gen_helper_exit_atomic_sem (n : Nat) : Sem gen_helper_exit_atomic n id :=
  Sem.call_id _ _ n (fun _ => rfl)

/-- An emitter whose ops leave the existing temporaries and memory alone. -/
theorem Sem.run_id {g : Gen Unit} {n : Nat} (h : Sem g n id) (s : TCGContext)
    (hs : n ≤ s.nb_temps) :
    ∃ tail k, g s = (some (), s.extend tail k) ∧ ∀ m, Agree s.nb_temps (run tail m) m :=
  h.2 s hs
theorem tcg_gen_movi_i64_eq (T : TCGTarget) (ret c : Nat) (s : TCGContext) :
    tcg_gen_movi_i64 T ret c s = (some (), s.extend
      (if T.reg64 then [⟨.movi_i64, [ret, c]⟩]
       else [⟨.movi_i32, [TCGV_LOW ret, c]⟩, ⟨.movi_i32, [TCGV_HIGH ret, c >>> 32]⟩]) 0) := by
  unfold tcg_gen_movi_i64
  cases T.reg64
  · simp [Gen.bind_apply, Gen.andThen, tcg_gen_movi_i32, tcg_gen_op2, tcg_emit_op,
      TCGContext.extend]
  · simp [tcg_gen_op2, tcg_emit_op, TCGContext.extend]

theorem tcg_canonicalize_memop_q (T : TCGTarget) (memop : Nat) (s : TCGContext)
    (ha : T.alignment_valid memop = true) (hs : memop &&& MO_SIZE = MO_64) :
    tcg_canonicalize_memop T memop true false s = (some memop, s) := by
  rw [tcg_canonicalize_memop_eq]
  simp [ha, hs, MO_64, MO_8, MO_16, MO_32]

theorem TCGContext.extend_nil (s : TCGContext) : s.extend [] 0 = s := by
  simp [TCGContext.extend]

/-- The tag-invalidation and load-link hooks that end an atomic lowering. -/
theorem atomic_hooks_sem (T : TCGTarget) (addr idx memop n : Nat) :
    Sem (if T.TARGET_MIPS = true ∨ T.TARGET_RISCV = true ∨ T.TARGET_CHERI = true then do
        let op ← tcg_const_i32 memop
        if T.TARGET_CHERI = true then do
            gen_cheri_invalidate_tags T addr op idx
            if T.TARGET_MIPS = true ∨ T.TARGET_RISCV = true then do
                gen_cheri_break_loadlink addr op
                tcg_temp_free_i32 op
              else do
                pure PUnit.unit
                tcg_temp_free_i32 op
          else do
            pure PUnit.unit
            if T.TARGET_MIPS = true ∨ T.TARGET_RISCV = true then do
                gen_cheri_break_loadlink addr op
                tcg_temp_free_i32 op
              else do
                pure PUnit.unit
                tcg_temp_free_i32 op
      else pure PUnit.unit) n id := by
  apply Sem.ite
  · refine Sem.const_id memop (fun t ht => ?_)
    repeat' (first
      | exact Sem.pure _ | exact Sem.free _ _ | exact gen_cheri_break_loadlink_sem _ _ _
      | exact gen_cheri_invalidate_tags_sem _ _ _ _ _
      | apply Sem.bind_id | apply Sem.ite)
  · exact Sem.pure _

theorem do_atomic_op_i64_no_atomic64 (T : TCGTarget) (ret addr val idx memop : Nat)
    (s : TCGContext) (hc : T.ASSERT_IF_CHERI = true)
    (h64 : T.CONFIG_ATOMIC64 = false) (ha : T.alignment_valid memop = true)
    (hs : memop &&& MO_SIZE = MO_64) :
    ∃ tail k, (∀ table, do_atomic_op_i64 T ret addr val idx memop table s =
        (some (), s.extend (⟨.call, [Helper.exit_atomic.toCtorIdx]⟩ ::
          (if T.reg64 then [⟨.movi_i64, [ret, 0]⟩]
           else [⟨.movi_i32, [TCGV_LOW ret, 0]⟩, ⟨.movi_i32, [TCGV_HIGH ret, 0]⟩]) ++ tail) k)) ∧
      (∀ m, Agree s.nb_temps (run tail m) m) ∧
      (¬ (T.TARGET_MIPS = true ∨ T.TARGET_RISCV = true ∨ T.TARGET_CHERI = true) → tail = []) := by
  obtain ⟨tail, k, e, r⟩ := Sem.run_id (atomic_hooks_sem T addr idx memop s.nb_temps)
    (s.extend ([⟨.call, [Helper.exit_atomic.toCtorIdx]⟩] ++
      (if T.reg64 then [⟨.movi_i64, [ret, 0]⟩]
       else [⟨.movi_i32, [TCGV_LOW ret, 0]⟩, ⟨.movi_i32, [TCGV_HIGH ret, 0 >>> 32]⟩])) (0 + 0))
    (by simp [TCGContext.extend])
  refine ⟨tail, 0 + 0 + k, fun table => ?_, fun m => (r m).mono (by simp [TCGContext.extend]),
    fun hh => ?_⟩
  · unfold do_atomic_op_i64
    rw [assert_bind_true _ hc, bind_some_of _ _ _ _ _ (tcg_canonicalize_memop_q T memop s ha hs)]
    simp only [hs, if_true, h64, Bool.false_eq_true, if_false]
    have e1 : gen_helper_exit_atomic s =
        (some (), s.extend [⟨.call, [Helper.exit_atomic.toCtorIdx]⟩] 0) := rfl
    rw [bind_some_of _ _ _ _ _ e1, bind_some_of _ _ _ _ _ (tcg_gen_movi_i64_eq T ret 0 _),
      TCGContext.extend_extend, e, TCGContext.extend_extend]
    simp
  · rw [if_neg hh] at e
    have := congrArg (fun p => p.2.ops) e
    simp [Pure.pure, TCGContext.extend] at this
    exact this

theorem tcg_gen_atomic_cmpxchg_i64_no_atomic64 (T : TCGTarget) (ret addr cmpv newv idx memop : Nat)
    (s : TCGContext) (hp : s.tb_cflags &&& CF_PARALLEL ≠ 0) (hc : T.ASSERT_IF_CHERI = true)
    (h64 : T.CONFIG_ATOMIC64 = false) (ha : T.alignment_valid memop = true)
    (hs : memop &&& MO_SIZE = MO_64) :
    tcg_gen_atomic_cmpxchg_i64_with_checked_addr T ret addr cmpv newv idx memop s =
      (some (), s.extend (⟨.call, [Helper.exit_atomic.toCtorIdx]⟩ ::
        (if T.reg64 then [⟨.movi_i64, [ret, 0]⟩]
         else [⟨.movi_i32, [TCGV_LOW ret, 0]⟩, ⟨.movi_i32, [TCGV_HIGH ret, 0]⟩])) 0) := by
  unfold tcg_gen_atomic_cmpxchg_i64_with_checked_addr
  rw [bind_some_of _ _ _ _ _ (tcg_canonicalize_memop_q T memop s ha hs)]
  have e0 : tb_cflags s = (some s.tb_cflags, s) := rfl
  rw [bind_some_of _ _ _ _ _ e0]
  simp only [hp, hs, if_true, h64, Bool.false_eq_true, if_false]
  rw [assert_bind_true _ hc]
  have e1 : gen_helper_exit_atomic s =
      (some (), s.extend [⟨.call, [Helper.exit_atomic.toCtorIdx]⟩] 0) := rfl
  rw [bind_some_of _ _ _ _ _ e1, tcg_gen_movi_i64_eq, TCGContext.extend_extend]
  simp
theorem run_exit_movi (T : TCGTarget) (ret : Nat) (m : Machine) :
    run (⟨.call, [Helper.exit_atomic.toCtorIdx]⟩ ::
        (if T.reg64 then [⟨.movi_i64, [ret, 0]⟩]
         else [⟨.movi_i32, [TCGV_LOW ret, 0]⟩, ⟨.movi_i32, [TCGV_HIGH ret, 0]⟩])) m =
      m.set64 T ret 0 := by
  rw [run_cons]
  have e : exec_op ⟨.call, [Helper.exit_atomic.toCtorIdx]⟩ m = m := rfl
  rw [e]
  cases hT : T.reg64
  · rw [Machine.set64_of_reg32 hT]
    rfl
  · rw [Machine.set64_of_reg64 hT]
    rfl
theorem pair64_eq_add (lo hi : Nat) : pair64 lo hi = lo % 2 ^ 32 + (hi % 2 ^ 32) * 2 ^ 32 := by
  have hl : lo % 2 ^ 32 < 2 ^ 32 := Nat.mod_lt _ (by norm_num)
  have e : lo % 2 ^ 32 + (hi % 2 ^ 32) * 2 ^ 32 = 2 ^ 32 * (hi % 2 ^ 32) + lo % 2 ^ 32 := by ring
  rw [e]
  apply Nat.eq_of_testBit_eq; intro i
  rw [testBit_pair64, Nat.testBit_mul_pow_two_add _ hl]
  simp only [Nat.testBit_mod_two_pow]
  rcases Nat.lt_or_ge i 32 with h | h
  · simp [h]
  · have h' : ¬ i < 32 := by omega
    simp [h, h']

theorem clz_eq (w x : Nat) : clz w x = w - Nat.size (x % 2 ^ w) := rfl

theorem size_le_of_lt {x k : Nat} (h : x < 2 ^ k) : Nat.size x ≤ k := Nat.size_le.mpr h

theorem clz64_of_lt32 {x : Nat} (h : x < 2 ^ 32) : clz 64 x = 32 + clz 32 x := by
  have h1 : x % 2 ^ 64 = x := Nat.mod_eq_of_lt (lt_trans h (by norm_num))
  have h2 : x % 2 ^ 32 = x := Nat.mod_eq_of_lt h
  have := size_le_of_lt h
  rw [clz_eq, clz_eq, h1, h2]
  omega

theorem size_pair (lo hi : Nat) (hlo : lo < 2 ^ 32) (hhi : 0 < hi) :
    Nat.size (lo + hi * 2 ^ 32) = 32 + Nat.size hi := by
  apply le_antisymm
  · rw [Nat.size_le, pow_add]
    have := Nat.lt_size_self hi
    calc lo + hi * 2 ^ 32 < 2 ^ 32 + hi * 2 ^ 32 := by omega
      _ = 2 ^ 32 * (hi + 1) := by ring
      _ ≤ 2 ^ 32 * 2 ^ Nat.size hi := Nat.mul_le_mul_left _ this
  · have h1 : 0 < Nat.size hi := Nat.size_pos.mpr hhi
    have h2 : 2 ^ (Nat.size hi - 1) ≤ hi := by
      have := (Nat.lt_size (m := Nat.size hi - 1) (n := hi)).mp (by omega)
      exact this
    have h3 : 32 + Nat.size hi - 1 < Nat.size (lo + hi * 2 ^ 32) := by
      rw [Nat.lt_size]
      have : 32 + Nat.size hi - 1 = (Nat.size hi - 1) + 32 := by omega
      rw [this, pow_add]
      calc 2 ^ (Nat.size hi - 1) * 2 ^ 32 ≤ hi * 2 ^ 32 := Nat.mul_le_mul_right _ h2
        _ ≤ lo + hi * 2 ^ 32 := Nat.le_add_left _ _
    omega

theorem clz64_pair (lo hi : Nat) :
    clz 64 (pair64 lo hi) =
      if hi % 2 ^ 32 = 0 then 32 + clz 32 lo else clz 32 hi := by
  have hp := pair64_lt lo hi
  rw [clz_eq, Nat.mod_eq_of_lt hp, pair64_eq_add]
  split
  · rename_i h
    rw [h, Nat.zero_mul, Nat.add_zero, clz_eq]
    have := size_le_of_lt (Nat.mod_lt lo (show 0 < 2 ^ 32 by norm_num))
    omega
  · rename_i h
    rw [size_pair _ _ (Nat.mod_lt _ (by norm_num)) (Nat.pos_of_ne_zero h), clz_eq]
    have := size_le_of_lt (Nat.mod_lt hi (show 0 < 2 ^ 32 by norm_num))
    omega

theorem clz_le (w x : Nat) : clz w x ≤ w := by
  rw [clz_eq]; omega

theorem pair64_eq_zero (lo hi : Nat) :
    pair64 lo hi = 0 ↔ lo % 2 ^ 32 = 0 ∧ hi % 2 ^ 32 = 0 := by
  rw [pair64_eq_add]
  constructor
  · intro h
    have : 0 < 2 ^ 32 := by norm_num
    constructor
    · omega
    · rcases Nat.eq_zero_or_pos (hi % 2 ^ 32) with h0 | h0
      · exact h0
      · have := Nat.mul_pos h0 this
        omega
  · rintro ⟨h1, h2⟩
    rw [h1, h2]
    rfl
/-- A helper taking and returning 64-bit values, on a 64-bit host. -/
theorem Sem.helper2_reg64 {T : TCGTarget} (hT : T.reg64 = true) (h : Helper) {r a b n : Nat}
    (f : Nat → Nat → Nat)
    (he : ∀ m, exec_op ⟨.call, [h.toCtorIdx, r, a, b]⟩ m =
      m.set r (f (m.regs a % 2 ^ 64) (m.regs b % 2 ^ 64)))
    (hf : ∀ x y, x < 2 ^ 64 → y < 2 ^ 64 → f x y < 2 ^ 64) (ha : a < n) (hb : b < n) :
    Sem (gen_helper_i64 T h r a b) n
      (fun m => m.set64 T r (f (m.get64 T a) (m.get64 T b))) := by
  have e : exec_op ⟨.call, [h.toCtorIdx, r, a, b]⟩ =
      fun m => m.set r (f (m.regs a % 2 ^ 64) (m.regs b % 2 ^ 64)) := funext he
  unfold gen_helper_i64 tcg_gen_callN
  simp only [hT, if_true]
  have hs : Sem (tcg_emit_op .call [h.toCtorIdx, r, a, b]) n
      (fun m => m.set r (f (m.regs a % 2 ^ 64) (m.regs b % 2 ^ 64))) := by
    rw [← e]
    exact Sem.emit _ _ _ (e ▸ Local.set2 r (fun x y => f (x % 2 ^ 64) (y % 2 ^ 64)) ha hb)
  refine hs.conseq (fun N _ m => ?_)
  refine Agree.of_reg64 hT rfl ?_ (fun i hi h1 => ?_)
  · simp only [Machine.set_regs_self, Machine.get64_of_reg64 hT]
    exact (Nat.mod_eq_of_lt (hf _ _ (Nat.mod_lt _ (by norm_num))
      (Nat.mod_lt _ (by norm_num)))).symm
  · simp (disch := omega) only [Machine.set_regs_ne]

/-- A native two-operand 64-bit op on a 64-bit host whose result is bounded when
both operands are. -/
theorem Sem.op2_64b {T : TCGTarget} (hT : T.reg64 = true) (opc : TCGOpcode) {r a b n : Nat}
    (f : Nat → Nat → Nat)
    (he : ∀ m, exec_op ⟨opc, [r, a, b]⟩ m =
      m.set r (f (m.regs a % 2 ^ 64) (m.regs b % 2 ^ 64)))
    (hf : ∀ x y, x < 2 ^ 64 → y < 2 ^ 64 → f x y < 2 ^ 64) (ha : a < n) (hb : b < n) :
    Sem (tcg_gen_op3 opc r a b) n
      (fun m => m.set64 T r (f (m.get64 T a) (m.get64 T b))) := by
  refine (Sem.op2 opc (fun x y => f (x % 2 ^ 64) (y % 2 ^ 64)) he ha hb).conseq
    (fun N _ m => ?_)
  refine Agree.of_reg64 hT rfl ?_ (fun i hi h1 => ?_)
  · simp only [Machine.set_regs_self, Machine.get64_of_reg64 hT]
    exact (Nat.mod_eq_of_lt (hf _ _ (Nat.mod_lt _ (by norm_num))
      (Nat.mod_lt _ (by norm_num)))).symm
  · simp (disch := omega) only [Machine.set_regs_ne]

theorem clz_lt64 (w x : Nat) (hw : w ≤ 64) : clz w x < 2 ^ 64 :=
  lt_of_le_of_lt (clz_le w x) (lt_of_le_of_lt hw (by norm_num))

theorem tcg_gen_clz_i64_sem (T : TCGTarget) {r a b n : Nat} (ha : a + T.w64 ≤ n)
    (hb : b + T.w64 ≤ n) :
    Sem (tcg_gen_clz_i64 T r a b) n
      (fun m => m.set64 T r
        (if m.get64 T a = 0 then m.get64 T b else clz 64 (m.get64 T a))) := by
  unfold tcg_gen_clz_i64
  have hw1 := w64_pos T
  have hfb : ∀ x y : Nat, x < 2 ^ 64 → y < 2 ^ 64 →
      (if x = 0 then y else clz 64 x) < 2 ^ 64 := by
    intro x y _ hy
    split
    · exact hy
    · exact clz_lt64 _ _ (le_refl _)
  cases hT : T.reg64
  · have hw := w64_of_reg32 hT
    have hn : T.TCG_TARGET_HAS_clz_i64 = false := by simp [TCGTarget.TCG_TARGET_HAS_clz_i64, hT]
    simp only [hn, Bool.false_eq_true, if_false]
    exact Sem.helper2_64 hT .clz_i64 (fun x y => if x = 0 then y else clz 64 x) (fun _ => rfl)
      (by omega) (by omega)
  · have hw := w64_of_reg64 hT
    by_cases hn : T.TCG_TARGET_HAS_clz_i64 = true
    · simp only [hn, if_true]
      exact Sem.op2_64b hT .clz_i64 (fun x y => if x = 0 then y else clz 64 x) (fun _ => rfl)
        hfb (by omega) (by omega)
    · simp only [hn, if_false]
      exact Sem.helper2_reg64 hT .clz_i64 (fun x y => if x = 0 then y else clz 64 x)
        (fun _ => rfl) hfb (by omega) (by omega)
/-- A six-argument paired op on a 32-bit host. -/
theorem Sem.op6_pair {T : TCGTarget} (hT : T.reg64 = false) (opc : TCGOpcode) {r a b n : Nat}
    (f : Nat → Nat → Nat)
    (he : ∀ m, exec_op ⟨opc, [r, r + 1, a, a + 1, b, b + 1]⟩ m =
      m.setPair r (r + 1) (f (pair64 (m.regs a) (m.regs (a + 1)))
        (pair64 (m.regs b) (m.regs (b + 1)))))
    (ha : a + 2 ≤ n) (hb : b + 2 ≤ n) :
    Sem (tcg_gen_op6 opc r (r + 1) a (a + 1) b (b + 1)) n
      (fun m => m.set64 T r (f (m.get64 T a) (m.get64 T b))) := by
  have hw := w64_of_reg32 hT
  have e : exec_op ⟨opc, [r, r + 1, a, a + 1, b, b + 1]⟩ =
      fun m => m.set64 T r (f (m.get64 T a) (m.get64 T b)) := by
    funext m
    rw [he, Machine.set64_of_reg32 hT, Machine.get64_of_reg32 hT, Machine.get64_of_reg32 hT]
    rfl
  unfold tcg_gen_op6
  rw [← e]
  exact Sem.emit _ _ _ (e ▸ Local.set64_2 T r f (by omega) (by omega))

theorem mod64_div32 (S : Nat) : (S % 2 ^ 64) / 2 ^ 32 % 2 ^ 32 = S / 2 ^ 32 % 2 ^ 32 := by
  rw [show (2 : Nat) ^ 64 = 2 ^ 32 * 2 ^ 32 by norm_num, Nat.mod_mul_right_div_self, Nat.mod_mod]

theorem mod64_mod32 (S : Nat) : (S % 2 ^ 64) % 2 ^ 32 = S % 2 ^ 32 :=
  Nat.mod_mod_of_dvd _ (by norm_num)

theorem add2_value (m : Machine) (r al ah bl bh : Nat) :
    (Machine.set (Machine.set m r
        (((al % 2 ^ 32 + ah % 2 ^ 32 * 2 ^ 32) + (bl % 2 ^ 32 + bh % 2 ^ 32 * 2 ^ 32)) % 2 ^ 32))
      (r + 1)
        ((((al % 2 ^ 32 + ah % 2 ^ 32 * 2 ^ 32) + (bl % 2 ^ 32 + bh % 2 ^ 32 * 2 ^ 32)) / 2 ^ 32)
          % 2 ^ 32)) =
    m.setPair r (r + 1) ((pair64 al ah + pair64 bl bh) % 2 ^ 64) := by
  unfold Machine.setPair
  rw [pair64_eq_add, pair64_eq_add, Nat.shiftRight_eq_div_pow, mod64_div32, mod64_mod32]

theorem sub2_value (m : Machine) (r al ah bl bh : Nat) :
    (Machine.set (Machine.set m r
        (((al % 2 ^ 32 + ah % 2 ^ 32 * 2 ^ 32) + 2 ^ 64 - (bl % 2 ^ 32 + bh % 2 ^ 32 * 2 ^ 32))
          % 2 ^ 32))
      (r + 1)
        ((((al % 2 ^ 32 + ah % 2 ^ 32 * 2 ^ 32) + 2 ^ 64 - (bl % 2 ^ 32 + bh % 2 ^ 32 * 2 ^ 32))
          / 2 ^ 32) % 2 ^ 32)) =
    m.setPair r (r + 1) ((pair64 al ah + 2 ^ 64 - pair64 bl bh) % 2 ^ 64) := by
  unfold Machine.setPair
  rw [pair64_eq_add, pair64_eq_add, Nat.shiftRight_eq_div_pow, mod64_div32, mod64_mod32]

theorem tcg_gen_add_i64_sem (T : TCGTarget) {r a b n : Nat} (ha : a + T.w64 ≤ n)
    (hb : b + T.w64 ≤ n) :
    Sem (tcg_gen_add_i64 T r a b) n
      (fun m => m.set64 T r ((m.get64 T a + m.get64 T b) % 2 ^ 64)) := by
  unfold tcg_gen_add_i64
  cases hT : T.reg64
  · have hw := w64_of_reg32 hT
    simp only [Bool.false_eq_true, if_false, TCGV_LOW, TCGV_HIGH]
    exact Sem.op6_pair hT .add2_i32 (fun x y => (x + y) % 2 ^ 64)
      (fun m => add2_value m _ _ _ _ _) (by omega) (by omega)
  · have hw := w64_of_reg64 hT
    simp only [if_true]
    exact Sem.op2_64 hT .add_i64 (fun x y => (x + y) % 2 ^ 64) (fun _ => rfl)
      (fun x y _ => Nat.mod_lt _ (by norm_num)) (by omega) (by omega)

theorem tcg_gen_sub_i64_sem (T : TCGTarget) {r a b n : Nat} (ha : a + T.w64 ≤ n)
    (hb : b + T.w64 ≤ n) :
    Sem (tcg_gen_sub_i64 T r a b) n
      (fun m => m.set64 T r ((m.get64 T a + 2 ^ 64 - m.get64 T b) % 2 ^ 64)) := by
  unfold tcg_gen_sub_i64
  cases hT : T.reg64
  · have hw := w64_of_reg32 hT
    simp only [Bool.false_eq_true, if_false, TCGV_LOW, TCGV_HIGH]
    exact Sem.op6_pair hT .sub2_i32 (fun x y => (x + 2 ^ 64 - y) % 2 ^ 64)
      (fun m => sub2_value m _ _ _ _ _) (by omega) (by omega)
  · have hw := w64_of_reg64 hT
    simp only [if_true]
    exact Sem.op2_64 hT .sub_i64 (fun x y => (x + 2 ^ 64 - y) % 2 ^ 64) (fun _ => rfl)
      (fun x y _ => Nat.mod_lt _ (by norm_num)) (by omega) (by omega)
theorem tcg_gen_addi_i32_sem {r a n : Nat} (c : Nat) (h1 : a < n) :
    Sem (tcg_gen_addi_i32 r a c) n
      (fun m => m.set r ((m.regs a % 2 ^ 32 + c % 2 ^ 32) % 2 ^ 32)) := by
  unfold tcg_gen_addi_i32
  by_cases h0 : c = 0
  · subst h0
    simp only [if_true]
    refine (tcg_gen_mov_i32_sem h1).conseq (fun N _ m => ?_)
    simp only [Nat.zero_mod, Nat.add_zero, Nat.mod_mod]
    exact Agree.refl _ _
  · rw [if_neg h0]
    exact Sem.imm32 c (fun x y => (x % 2 ^ 32 + y % 2 ^ 32) % 2 ^ 32)
      (fun x => (x % 2 ^ 32 + c % 2 ^ 32) % 2 ^ 32) h1
      (fun t ht => tcg_gen_add_i32_sem (by omega) (by omega))
      (fun x => by simp only [Nat.mod_mod])

theorem tcg_gen_subi_i32_sem {r a n : Nat} (c : Nat) (h1 : a < n) :
    Sem (tcg_gen_subi_i32 r a c) n
      (fun m => m.set r ((m.regs a % 2 ^ 32 + 2 ^ 32 - c % 2 ^ 32) % 2 ^ 32)) := by
  unfold tcg_gen_subi_i32
  by_cases h0 : c = 0
  · subst h0
    simp only [if_true]
    refine (tcg_gen_mov_i32_sem h1).conseq (fun N _ m => ?_)
    have : (m.regs a % 2 ^ 32 + 2 ^ 32 - 0 % 2 ^ 32) % 2 ^ 32 = m.regs a % 2 ^ 32 := by omega
    rw [this]
    exact Agree.refl _ _
  · rw [if_neg h0]
    exact Sem.imm32 c (fun x y => (x % 2 ^ 32 + 2 ^ 32 - y % 2 ^ 32) % 2 ^ 32)
      (fun x => (x % 2 ^ 32 + 2 ^ 32 - c % 2 ^ 32) % 2 ^ 32) h1
      (fun t ht => tcg_gen_sub_i32_sem (by omega) (by omega))
      (fun x => by simp only [Nat.mod_mod])

theorem tcg_gen_addi_i64_sem (T : TCGTarget) {r a n : Nat} (c : Nat) (h1 : a + T.w64 ≤ n)
    (hra : r = a ∨ r + T.w64 ≤ a ∨ a + T.w64 ≤ r) :
    Sem (tcg_gen_addi_i64 T r a c) n
      (fun m => m.set64 T r ((m.get64 T a + c % 2 ^ 64) % 2 ^ 64)) := by
  have hw1 := w64_pos T
  unfold tcg_gen_addi_i64
  by_cases h0 : c = 0
  · subst h0
    simp only [if_true]
    refine (tcg_gen_mov_i64_sem T h1 hra).conseq (fun N _ m => ?_)
    have := Machine.get64_lt T m a
    rw [Nat.zero_mod, Nat.add_zero, Nat.mod_eq_of_lt this]
    exact Agree.refl _ _
  · rw [if_neg h0]
    exact Sem.imm64 T c (fun x y => (x + y) % 2 ^ 64) (fun x => (x + c % 2 ^ 64) % 2 ^ 64) h1
      (fun t ht => tcg_gen_add_i64_sem T (by omega) (by omega)) (fun x => rfl)

theorem tcg_gen_subi_i64_sem (T : TCGTarget) {r a n : Nat} (c : Nat) (h1 : a + T.w64 ≤ n)
    (hra : r = a ∨ r + T.w64 ≤ a ∨ a + T.w64 ≤ r) :
    Sem (tcg_gen_subi_i64 T r a c) n
      (fun m => m.set64 T r ((m.get64 T a + 2 ^ 64 - c % 2 ^ 64) % 2 ^ 64)) := by
  have hw1 := w64_pos T
  unfold tcg_gen_subi_i64
  by_cases h0 : c = 0
  · subst h0
    simp only [if_true]
    refine (tcg_gen_mov_i64_sem T h1 hra).conseq (fun N _ m => ?_)
    have := Machine.get64_lt T m a
    have e : (m.get64 T a + 2 ^ 64 - 0 % 2 ^ 64) % 2 ^ 64 = m.get64 T a := by omega
    rw [e]
    exact Agree.refl _ _
  · rw [if_neg h0]
    exact Sem.imm64 T c (fun x y => (x + 2 ^ 64 - y) % 2 ^ 64)
      (fun x => (x + 2 ^ 64 - c % 2 ^ 64) % 2 ^ 64) h1
      (fun t ht => tcg_gen_sub_i64_sem T (by omega) (by omega)) (fun x => rfl)

theorem tcg_gen_extu_i32_i64_sem (T : TCGTarget) {r a n : Nat} (h1 : a < n) :
    Sem (tcg_gen_extu_i32_i64 T r a) n (fun m => m.set64 T r (m.regs a % 2 ^ 32)) := by
  unfold tcg_gen_extu_i32_i64
  cases hT : T.reg64
  · simp only [Bool.false_eq_true, not_false_eq_true, if_true, TCGV_LOW, TCGV_HIGH]
    refine (Sem.bind (tcg_gen_mov_i32_sem (r := r) h1)
      (tcg_gen_movi_i32_sem (r + 1) 0 n)).conseq (fun N _ m => ?_)
    refine Agree.of_pair hT rfl ?_ ?_ (fun i hi h1 h2 => ?_)
    · simp (disch := omega) only [Function.comp, Machine.set_regs_self, Machine.set_regs_ne,
        Nat.mod_mod]
    · simp (disch := omega) only [Function.comp, Machine.set_regs_self, Machine.set_regs_ne]
      rw [Nat.shiftRight_eq_div_pow]
      have := Nat.mod_lt (m.regs a) (show 0 < 2 ^ 32 by norm_num)
      omega
    · simp (disch := omega) only [Function.comp, Machine.set_regs_ne]
  · simp only [not_true_eq_false, if_false]
    refine (Sem.op1 .extu_i32_i64 (fun x => x % 2 ^ 32) (fun _ => rfl) h1).conseq
      (fun N _ m => ?_)
    refine Agree.of_reg64 hT rfl ?_ (fun i hi h1 => ?_)
    · simp only [Machine.set_regs_self]
      have := Nat.mod_lt (m.regs a) (show 0 < 2 ^ 32 by norm_num)
      omega
    · simp (disch := omega) only [Machine.set_regs_ne]

theorem tcg_gen_extrl_i64_i32_sem (T : TCGTarget) {r a n : Nat} (h1 : a + T.w64 ≤ n) :
    Sem (tcg_gen_extrl_i64_i32 T r a) n (fun m => m.set r (m.get64 T a % 2 ^ 32)) := by
  have hw1 := w64_pos T
  unfold tcg_gen_extrl_i64_i32
  cases hT : T.reg64
  · have hw := w64_of_reg32 hT
    simp only [Bool.false_eq_true, not_false_eq_true, if_true, TCGV_LOW]
    refine (tcg_gen_mov_i32_sem (r := r) (a := a) (by omega)).conseq (fun N _ m => ?_)
    rw [Machine.get64_of_reg32 hT, pair64_low]
    exact Agree.refl _ _
  · simp only [not_true_eq_false, if_false]
    split
    · refine (Sem.op1 .extrl_i64_i32 (fun x => x % 2 ^ 64 % 2 ^ 32) (fun _ => rfl)
        (by omega)).conseq (fun N _ m => ?_)
      rw [Machine.get64_of_reg64 hT]
      exact Agree.refl _ _
    · refine (tcg_gen_mov_i32_sem (r := r) (a := a) (by omega)).conseq (fun N _ m => ?_)
      rw [Machine.get64_of_reg64 hT, mod64_mod32]
      exact Agree.refl _ _
theorem Sem.free64 (t n : Nat) : Sem (tcg_temp_free_i64 t) n id := Sem.pure n

theorem clz32_promoted (x d : Nat) (hx : x < 2 ^ 32) (hd : d < 2 ^ 32) :
    (((if x % 2 ^ 64 = 0 then (d % 2 ^ 64 + 32 % 2 ^ 64) % 2 ^ 64 % 2 ^ 64
        else clz 64 (x % 2 ^ 64)) % 2 ^ 64 % 2 ^ 32) % 2 ^ 32 + 2 ^ 32 - 32 % 2 ^ 32) % 2 ^ 32 =
      if x = 0 then d else clz 32 x := by
  have h1 : x % 2 ^ 64 = x := Nat.mod_eq_of_lt (lt_trans hx (by norm_num))
  rw [h1]
  split
  · omega
  · rw [clz64_of_lt32 hx]
    have := clz_le 32 x
    omega

/-- A helper taking and returning 32-bit values. -/
theorem Sem.helper2_i32 (h : Helper) {r a b n : Nat} (f : Nat → Nat → Nat)
    (he : ∀ m, exec_op ⟨.call, [h.toCtorIdx, r, a, b]⟩ m = m.set r (f (m.regs a) (m.regs b)))
    (ha : a < n) (hb : b < n) :
    Sem (tcg_gen_callN h [r, a, b]) n (fun m => m.set r (f (m.regs a) (m.regs b))) := by
  have e : exec_op ⟨.call, [h.toCtorIdx, r, a, b]⟩ =
      fun m => m.set r (f (m.regs a) (m.regs b)) := funext he
  unfold tcg_gen_callN
  rw [← e]
  exact Sem.emit _ _ _ (e ▸ Local.set2 r f ha hb)

theorem tcg_gen_clz_i32_sem (T : TCGTarget) {r a b n : Nat} (ha : a < n) (hb : b < n)
    (hr : r < n) :
    Sem (tcg_gen_clz_i32 T r a b) n
      (fun m => m.set r
        (if m.regs a % 2 ^ 32 = 0 then m.regs b % 2 ^ 32 else clz 32 (m.regs a % 2 ^ 32))) := by
  unfold tcg_gen_clz_i32
  by_cases h32 : T.TCG_TARGET_HAS_clz_i32 = true
  · simp only [h32, if_true]
    exact Sem.op2 .clz_i32
      (fun x y => if x % 2 ^ 32 = 0 then y % 2 ^ 32 else clz 32 (x % 2 ^ 32)) (fun _ => rfl) ha hb
  simp only [h32, if_false]
  by_cases h64 : T.TCG_TARGET_HAS_clz_i64 = true
  · simp only [h64, if_true]
    have hT : T.reg64 = true := by
      simp only [TCGTarget.TCG_TARGET_HAS_clz_i64, Bool.and_eq_true] at h64
      exact h64.1
    have hw := w64_of_reg64 hT
    refine Sem.new64_2 T (F := fun t m =>
        ((m.set t (if m.regs a % 2 ^ 32 = 0 then (m.regs b % 2 ^ 32 + 32) % 2 ^ 64
           else clz 64 (m.regs a % 2 ^ 32))).set (t + 1) ((m.regs b % 2 ^ 32 + 32) % 2 ^ 64)).set r
          (if m.regs a % 2 ^ 32 = 0 then m.regs b % 2 ^ 32 else clz 32 (m.regs a % 2 ^ 32)))
      (fun t ht => ?_) (fun t ht m => ?_)
      (Local.set2 r (fun x y => if x % 2 ^ 32 = 0 then y % 2 ^ 32 else clz 32 (x % 2 ^ 32)) ha hb)
    · refine (Sem.bind (tcg_gen_extu_i32_i64_sem T (r := t) (a := a) (by omega))
        (Sem.bind (tcg_gen_extu_i32_i64_sem T (r := t + T.w64) (a := b) (by omega))
        (Sem.bind (tcg_gen_addi_i64_sem T (r := t + T.w64) (a := t + T.w64) 32 (by omega)
          (Or.inl rfl))
        (Sem.bind (tcg_gen_clz_i64_sem T (r := t) (a := t) (b := t + T.w64) (by omega) (by omega))
        (Sem.bind (tcg_gen_extrl_i64_i32_sem T (r := r) (a := t) (by omega))
        (Sem.bind (Sem.free64 t _)
        (Sem.bind (Sem.free64 (t + T.w64) _)
          (tcg_gen_subi_i32_sem (r := r) (a := r) 32 (by omega))))))))).conseq
        (fun N hN m => ?_)
      simp only [Function.comp, id, Machine.set64_of_reg64 hT, Machine.get64_of_reg64 hT, hw]
      have hx := Nat.mod_lt (m.regs a) (show 0 < 2 ^ 32 by norm_num)
      have hd := Nat.mod_lt (m.regs b) (show 0 < 2 ^ 32 by norm_num)
      have hat : a ≠ t := by omega
      have hat1 : a ≠ t + 1 := by omega
      have hbt : b ≠ t := by omega
      have hbt1 : b ≠ t + 1 := by omega
      have hrt : r ≠ t := by omega
      have hrt1 : r ≠ t + 1 := by omega
      have htt : t ≠ t + 1 := by omega
      have htt' : t + 1 ≠ t := by omega
      refine ⟨by simp [Machine.set], fun i hi => ?_⟩
      simp only [Machine.set_regs_self, Machine.set_regs_ne _ _ hat, Machine.set_regs_ne _ _ hat1,
        Machine.set_regs_ne _ _ hbt, Machine.set_regs_ne _ _ hbt1, Machine.set_regs_ne _ _ htt,
        Machine.set_regs_ne _ _ htt', Nat.mod_mod]
      by_cases hi1 : i = r
      · subst hi1
        simp only [Machine.set_regs_self]
        have e1 : m.regs a % 2 ^ 32 % 2 ^ 64 = m.regs a % 2 ^ 32 :=
          Nat.mod_eq_of_lt (lt_trans hx (by norm_num))
        have e2 : m.regs b % 2 ^ 32 % 2 ^ 64 = m.regs b % 2 ^ 32 :=
          Nat.mod_eq_of_lt (lt_trans hd (by norm_num))
        simp only [e1, e2]
        split
        · omega
        · rw [clz64_of_lt32 hx]
          have := clz_le 32 (m.regs a % 2 ^ 32)
          omega
      · simp only [Machine.set_regs_ne _ _ hi1]
        by_cases hi2 : i = t + 1
        · subst hi2
          simp only [Machine.set_regs_self, Machine.set_regs_ne _ _ htt']
          have e2 : m.regs b % 2 ^ 32 % 2 ^ 64 = m.regs b % 2 ^ 32 :=
            Nat.mod_eq_of_lt (lt_trans hd (by norm_num))
          simp only [e2]
          omega
        · simp only [Machine.set_regs_ne _ _ hi2]
          by_cases hi3 : i = t
          · subst hi3
            simp only [Machine.set_regs_self]
            have e1 : m.regs a % 2 ^ 32 % 2 ^ 64 = m.regs a % 2 ^ 32 :=
              Nat.mod_eq_of_lt (lt_trans hx (by norm_num))
            have e2 : m.regs b % 2 ^ 32 % 2 ^ 64 = m.regs b % 2 ^ 32 :=
              Nat.mod_eq_of_lt (lt_trans hd (by norm_num))
            simp only [e1, e2]
            split
            · omega
            · have := clz_le 64 (m.regs a % 2 ^ 32)
              omega
          · simp only [Machine.set_regs_ne _ _ hi3, Machine.set_regs_ne _ _ hi2]
    · refine ⟨by simp [Machine.set], fun i hi => ?_⟩
      have h1 : i ≠ t := by omega
      have h2 : i ≠ t + 1 := by omega
      simp only [Machine.set_regs, h1, h2, if_false]
  · simp only [h64, if_false]
    exact Sem.helper2_i32 .clz_i32
      (fun x y => if x % 2 ^ 32 = 0 then y % 2 ^ 32 else clz 32 (x % 2 ^ 32)) (fun _ => rfl) ha hb
theorem tcg_gen_clzi_i32_sem (T : TCGTarget) {r a n : Nat} (c : Nat) (ha : a < n) (hr : r < n) :
    Sem (tcg_gen_clzi_i32 T r a c) n
      (fun m => m.set r
        (if m.regs a % 2 ^ 32 = 0 then c % 2 ^ 32 else clz 32 (m.regs a % 2 ^ 32))) := by
  unfold tcg_gen_clzi_i32
  exact Sem.imm32 c (fun x y => if x % 2 ^ 32 = 0 then y % 2 ^ 32 else clz 32 (x % 2 ^ 32))
    (fun x => if x % 2 ^ 32 = 0 then c % 2 ^ 32 else clz 32 (x % 2 ^ 32)) ha
    (fun t ht => tcg_gen_clz_i32_sem T (by omega) (by omega) (by omega))
    (fun x => by simp only [Nat.mod_mod])

theorem clzi_pair_value (lo hi c : Nat) (hc : c ≤ 0xffffffff) :
    (if hi % 2 ^ 32 = 0 then
        (((if lo % 2 ^ 32 = 0 then (c % 2 ^ 32 + 2 ^ 32 - 32) % 2 ^ 32 % 2 ^ 32
            else clz 32 (lo % 2 ^ 32)) % 2 ^ 32 + 32 % 2 ^ 32) % 2 ^ 32) % 2 ^ 32
      else clz 32 (hi % 2 ^ 32)) =
    if pair64 lo hi = 0 then c % 2 ^ 64 else clz 64 (pair64 lo hi) := by
  have h1 := clz_le 32 (lo % 2 ^ 32)
  have h2 := clz_le 32 (hi % 2 ^ 32)
  have e1 : clz 32 (lo % 2 ^ 32) = clz 32 lo := by simp only [clz_eq, Nat.mod_mod]
  have e2 : clz 32 (hi % 2 ^ 32) = clz 32 hi := by simp only [clz_eq, Nat.mod_mod]
  have hz := pair64_eq_zero lo hi
  rw [clz64_pair]
  by_cases hh : hi % 2 ^ 32 = 0
  · by_cases hl : lo % 2 ^ 32 = 0
    · have : pair64 lo hi = 0 := hz.mpr ⟨hl, hh⟩
      simp only [hh, hl, this, if_true]
      omega
    · have : ¬ pair64 lo hi = 0 := fun h => hl (hz.mp h).1
      simp only [hh, hl, this, if_true, if_false]
      omega
  · have : ¬ pair64 lo hi = 0 := fun h => hh (hz.mp h).2
    simp only [hh, this, if_false, e2]

theorem tcg_gen_clzi_i64_sem (T : TCGTarget) {r a n : Nat} (c : Nat) (hc : c < 2 ^ 64)
    (ha : a + T.w64 ≤ n) (hr : r + T.w64 ≤ n)
    (hra : r = a ∨ r + T.w64 ≤ a ∨ a + T.w64 ≤ r) :
    Sem (tcg_gen_clzi_i64 T r a c) n
      (fun m => m.set64 T r (if m.get64 T a = 0 then c else clz 64 (m.get64 T a))) := by
  have hw1 := w64_pos T
  unfold tcg_gen_clzi_i64
  split
  · rename_i h
    obtain ⟨hT', h32, hc32⟩ := h
    have hT : T.reg64 = false := by simpa using hT'
    have hw := w64_of_reg32 hT
    simp only [TCGV_LOW, TCGV_HIGH]
    refine Sem.const _ (Local.set64_1 T r (fun x => if x = 0 then c else clz 64 x) ha)
      (fun t ht => Sem.bind (tcg_gen_clz_i32_sem T (r := t) (a := a) (b := t) (by omega)
          (by omega) (by omega))
        (Sem.bind (tcg_gen_addi_i32_sem (r := t) (a := t) 32 (by omega))
        (Sem.bind (tcg_gen_clz_i32_sem T (r := r) (a := a + 1) (b := t) (by omega) (by omega)
          (by omega))
        (Sem.bind (tcg_gen_movi_i32_sem (r + 1) 0 _) (Sem.free t _)))))
      (fun t ht m => ?_)
    have hat : a ≠ t := by omega
    have hat1 : a + 1 ≠ t := by omega
    have hrt : t ≠ r := by omega
    have hrt1 : t ≠ r + 1 := by omega
    have hr1 : r ≠ r + 1 := by omega
    have ha1 : a + 1 ≠ r := by omega
    refine Agree.of_pair hT (by simp [Machine.set]) ?_ ?_ (fun i hi h1 h2 => ?_)
    · simp only [Function.comp, id, Machine.set_regs_self, Machine.set_regs_ne _ _ hat,
        Machine.set_regs_ne _ _ hat1, Machine.set_regs_ne _ _ hrt, Machine.set_regs_ne _ _ hr1,
        Nat.mod_mod]
      rw [Machine.get64_of_reg32 hT]
      have := clzi_pair_value (m.regs a) (m.regs (a + 1)) c hc32
      simp only [Nat.mod_mod] at this
      rw [this, Nat.mod_eq_of_lt hc]
      have hp := pair64_lt (m.regs a) (m.regs (a + 1))
      have hz := clz_le 64 (pair64 (m.regs a) (m.regs (a + 1)))
      split <;> omega
    · simp only [Function.comp, id, Machine.set_regs_self]
      rw [Machine.get64_of_reg32 hT, Nat.shiftRight_eq_div_pow]
      have hz := clz_le 64 (pair64 (m.regs a) (m.regs (a + 1)))
      split <;> omega
    · have hit : i ≠ t := by omega
      simp only [Function.comp, id, Machine.set_regs_ne _ _ h1, Machine.set_regs_ne _ _ h2,
        Machine.set_regs_ne _ _ hit]
  · exact Sem.imm64 T c (fun x y => if x = 0 then y else clz 64 x)
      (fun x => if x = 0 then c else clz 64 x) ha
      (fun t ht => tcg_gen_clz_i64_sem T (by omega) (by omega))
      (fun x => by rw [Nat.mod_eq_of_lt hc])
theorem ldn_lt (mem : Nat → Nat) (a n : Nat) : ldn mem a n < 2 ^ (8 * n) := by
  induction n generalizing a with
  | zero => simp [ldn]
  | succ k ih =>
    have h1 := ih (a + 1)
    have h2 : mem a % 256 < 256 := Nat.mod_lt _ (by norm_num)
    have e : 2 ^ (8 * (k + 1)) = 256 * 2 ^ (8 * k) := by
      rw [Nat.mul_add, pow_add]; ring
    rw [ldn, e]
    have : 256 * ldn mem (a + 1) k + 256 ≤ 256 * 2 ^ (8 * k) := by
      have := Nat.mul_le_mul_left 256 (Nat.succ_le_of_lt h1)
      simpa [Nat.mul_succ] using this
    omega

theorem stn_outside (mem : Nat → Nat) (a n v x : Nat) (h : x < a ∨ a + n ≤ x) :
    stn mem a n v x = mem x := by
  unfold stn
  rw [if_neg (by omega)]

theorem ldn_congr (mem mem' : Nat → Nat) (a n : Nat)
    (h : ∀ x, a ≤ x → x < a + n → mem x = mem' x) : ldn mem a n = ldn mem' a n := by
  induction n generalizing a with
  | zero => rfl
  | succ k ih =>
    rw [ldn, ldn, h a (le_refl _) (by omega), ih (a + 1) (fun x h1 h2 => h x (by omega) (by omega))]

theorem ldn_stn (mem : Nat → Nat) (a n v : Nat) : ldn (stn mem a n v) a n = v % 2 ^ (8 * n) := by
  induction n generalizing a v with
  | zero => simp [ldn, Nat.mod_one]
  | succ k ih =>
    have e1 : stn mem a (k + 1) v a = v % 256 := by
      unfold stn
      rw [if_pos (by omega)]
      simp
    have e2 : ldn (stn mem a (k + 1) v) (a + 1) k = ldn (stn mem (a + 1) k (v / 256)) (a + 1) k := by
      apply ldn_congr
      intro x h1 h2
      unfold stn
      rw [if_pos (by omega), if_pos (by omega)]
      rw [Nat.shiftRight_eq_div_pow, Nat.shiftRight_eq_div_pow]
      have : 8 * (x - a) = 8 + 8 * (x - (a + 1)) := by omega
      rw [this, pow_add, ← Nat.div_div_eq_div_mul]
      norm_num
    rw [ldn, e1, e2, ih]
    have e : 2 ^ (8 * (k + 1)) = 256 * 2 ^ (8 * k) := by
      rw [Nat.mul_add, pow_add]; ring
    rw [e, Nat.mod_mul, Nat.mod_mod]

theorem ldn_stn_outside (mem : Nat → Nat) (a n v b k : Nat) (h : b + k ≤ a ∨ a + n ≤ b) :
    ldn (stn mem a n v) b k = ldn mem b k :=
  ldn_congr _ _ _ _ (fun x h1 h2 => stn_outside _ _ _ _ _ (by omega))
theorem testBit_rotl_mod (w x n i : Nat) (hn : n < w) (hi : i < w) :
    (rotl w x n).testBit i = x.testBit ((i + w - n) % w) := by
  rw [testBit_rotl w x n i hn]
  rcases Nat.lt_or_ge i n with h | h
  · have e : (i + w - n) % w = w - n + i := by
      rw [Nat.mod_eq_of_lt (by omega)]; omega
    rw [e]
    simp (disch := omega) only [decide_eq_true, decide_eq_false, Bool.true_and, Bool.false_and,
      Bool.false_or]
  · have e : (i + w - n) % w = i - n := by
      rw [show i + w - n = (i - n) + w by omega, Nat.add_mod_right, Nat.mod_eq_of_lt (by omega)]
    rw [e]
    simp (disch := omega) only [decide_eq_true, decide_eq_false, Bool.true_and, Bool.false_and,
      Bool.or_false]

theorem testBit_rotr_mod (w x n i : Nat) (hn : n < w) (hi : i < w) :
    (rotr w x n).testBit i = x.testBit ((i + n) % w) := by
  rw [testBit_rotr w x n i hn]
  rcases Nat.lt_or_ge (n + i) w with h | h
  · have e : (i + n) % w = n + i := by
      rw [Nat.mod_eq_of_lt (by omega)]; omega
    rw [e]
    simp (disch := omega) only [decide_eq_true, decide_eq_false, Bool.true_and, Bool.false_and,
      Bool.or_false]
  · have e : (i + n) % w = i - (w - n) := by
      rw [show i + n = (i - (w - n)) + w by omega, Nat.add_mod_right, Nat.mod_eq_of_lt (by omega)]
    rw [e]
    simp (disch := omega) only [decide_eq_true, decide_eq_false, Bool.true_and, Bool.false_and,
      Bool.false_or]

theorem rotl_eq_shifts (w x c : Nat) (hx : x < 2 ^ w) (hc : c < w) :
    ((x <<< c) % 2 ^ w) ||| (x >>> (w - c)) = rotl w x c := by
  unfold rotl
  rw [Nat.mod_eq_of_lt hc, Nat.mod_eq_of_lt hx]
  apply Nat.eq_of_testBit_eq; intro i
  simp only [Nat.testBit_or, Nat.testBit_mod_two_pow, Nat.testBit_shiftLeft,
    Nat.testBit_shiftRight, ge_iff_le]
  rcases Nat.lt_or_ge i w with h | h
  · simp (disch := omega) only [decide_eq_true, decide_eq_false, Bool.true_and]
  · have : x.testBit (w - c + i) = false :=
      Nat.testBit_lt_two_pow (lt_of_lt_of_le hx (Nat.pow_le_pow_right (by norm_num) (by omega)))
    simp (disch := omega) only [decide_eq_true, decide_eq_false, Bool.false_and, this,
      Bool.or_false]

theorem tcg_gen_rotri_i32_delegates (T : TCGTarget) (ret arg : Nat) (n : Nat) (h0 : 0 < n)
    (hn : n < 32) : tcg_gen_rotri_i32 T ret arg n = tcg_gen_rotli_i32 T ret arg (32 - n) := by
  funext s
  have h1 : ¬ n = 0 := by omega
  have h2 : 32 - n < 32 := by omega
  have h3 : ¬ 32 - n = 0 := by omega
  unfold tcg_gen_rotri_i32 tcg_gen_rotli_i32
  simp only [Gen.bind_apply, tcg_debug_assert, hn, h2, decide_True, if_true, Gen.andThen_some,
    h1, h3, if_false]

theorem tcg_gen_rotri_i64_delegates (T : TCGTarget) (ret arg : Nat) (n : Nat) (h0 : 0 < n)
    (hn : n < 64) : tcg_gen_rotri_i64 T ret arg n = tcg_gen_rotli_i64 T ret arg (64 - n) := by
  funext s
  have h1 : ¬ n = 0 := by omega
  have h2 : 64 - n < 64 := by omega
  have h3 : ¬ 64 - n = 0 := by omega
  unfold tcg_gen_rotri_i64 tcg_gen_rotli_i64
  simp only [Gen.bind_apply, tcg_debug_assert, hn, h2, decide_True, if_true, Gen.andThen_some,
    h1, h3, if_false]
theorem byte_bswap16 (x k : Nat) (hk : k < 2) : byte (bswap16 x) k = byte x (1 - k) := by
  apply Nat.eq_of_testBit_eq; intro i
  simp only [testBit_byte, testBit_bswap16]
  rcases Nat.lt_or_ge i 8 with hi | hi
  · interval_cases k
    all_goals simp (disch := omega) only [decide_eq_true, decide_eq_false, Bool.and_true,
      Bool.true_and, Bool.false_and, Bool.and_false, Bool.or_false, Bool.false_or]
    all_goals congr 1
    all_goals omega
  · simp (disch := omega) only [decide_eq_true, decide_eq_false, Bool.false_and]

theorem byte_bswap32 (x k : Nat) (hk : k < 4) : byte (bswap32 x) k = byte x (3 - k) := by
  apply Nat.eq_of_testBit_eq; intro i
  simp only [testBit_byte, testBit_bswap32]
  rcases Nat.lt_or_ge i 8 with hi | hi
  · interval_cases k
    all_goals simp (disch := omega) only [decide_eq_true, decide_eq_false, Bool.and_true,
      Bool.true_and, Bool.false_and, Bool.and_false, Bool.or_false, Bool.false_or]
    all_goals congr 1
    all_goals omega
  · simp (disch := omega) only [decide_eq_true, decide_eq_false, Bool.false_and]

theorem byte_bswap64 (x k : Nat) (hk : k < 8) : byte (bswap64 x) k = byte x (7 - k) := by
  apply Nat.eq_of_testBit_eq; intro i
  simp only [testBit_byte, testBit_bswap64]
  rcases Nat.lt_or_ge i 8 with hi | hi
  · interval_cases k
    all_goals simp (disch := omega) only [decide_eq_true, decide_eq_false, Bool.and_true,
      Bool.true_and, Bool.false_and, Bool.and_false, Bool.or_false, Bool.false_or]
    all_goals congr 1
    all_goals omega
  · simp (disch := omega) only [decide_eq_true, decide_eq_false, Bool.false_and]
theorem bnot_mod (w x : Nat) : bnot w (x % 2 ^ w) = bnot w x := by
  unfold bnot; rw [Nat.mod_mod]

theorem bnot_lt (w x : Nat) : bnot w x < 2 ^ w := by
  unfold bnot
  exact Nat.xor_lt_two_pow (Nat.sub_lt (Nat.two_pow_pos w) (by norm_num))
    (Nat.mod_lt _ (Nat.two_pow_pos w))

theorem tcg_gen_xori_i32_sem (T : TCGTarget) {r a n : Nat} (c : Nat) (h1 : a < n) :
    Sem (tcg_gen_xori_i32 T r a c) n
      (fun m => m.set r (m.regs a % 2 ^ 32 ^^^ c % 2 ^ 32)) := by
  unfold tcg_gen_xori_i32
  split_ifs with c0 c1
  · subst c0
    refine (tcg_gen_mov_i32_sem h1).conseq (fun N hN m => ?_)
    simp [Agree.refl]
  · obtain ⟨rfl, -⟩ := c1
    refine (Sem.op1 .not_i32 (fun x => bnot 32 (x % 2 ^ 32)) (fun _ => rfl) h1).conseq
      (fun N hN m => Agree.set (Agree.refl _ _) _ ?_)
    unfold bnot
    rw [Nat.mod_mod, Nat.xor_comm]
    rfl
  · exact Sem.imm32 c (fun x y => x % 2 ^ 32 ^^^ y % 2 ^ 32) _ h1
      (fun t ht => tcg_gen_xor_i32_sem (show a < t + 1 by omega) (show t < t + 1 by omega))
      (fun x => by show x % 2 ^ 32 ^^^ c % 2 ^ 32 % 2 ^ 32 = _
                   rw [Nat.mod_mod])

theorem tcg_gen_ori_i32_sem {r a n : Nat} (c : Nat) (h1 : a < n) :
    Sem (tcg_gen_ori_i32 r a c) n
      (fun m => m.set r (m.regs a % 2 ^ 32 ||| c % 2 ^ 32)) := by
  unfold tcg_gen_ori_i32
  split_ifs with c0 c1
  · subst c0
    refine (tcg_gen_movi_i32_sem r _ n).conseq (fun N hN m => Agree.set (Agree.refl _ _) _ ?_)
    apply Nat.eq_of_testBit_eq; intro i
    rw [show (4294967295 : Nat) % 2 ^ 32 = 2 ^ 32 - 1 by norm_num]
    simp only [Nat.testBit_or, Nat.testBit_mod_two_pow, Nat.testBit_two_pow_sub_one]
    cases decide (i < 32) <;> simp
  · subst c1
    refine (tcg_gen_mov_i32_sem h1).conseq (fun N hN m => ?_)
    simp [Agree.refl]
  · exact Sem.imm32 c (fun x y => x % 2 ^ 32 ||| y % 2 ^ 32) _ h1
      (fun t ht => tcg_gen_or_i32_sem (show a < t + 1 by omega) (show t < t + 1 by omega))
      (fun x => by show x % 2 ^ 32 ||| c % 2 ^ 32 % 2 ^ 32 = _
                   rw [Nat.mod_mod])

theorem tcg_gen_not_i32_sem (T : TCGTarget) {r a n : Nat} (h1 : a < n) :
    Sem (tcg_gen_not_i32 T r a) n (fun m => m.set r (bnot 32 (m.regs a))) := by
  unfold tcg_gen_not_i32
  split_ifs with c0
  · exact (Sem.op1 .not_i32 (fun x => bnot 32 (x % 2 ^ 32)) (fun _ => rfl) h1).conseq
      (fun N hN m => Agree.set (Agree.refl _ _) _ (bnot_mod 32 _))
  · refine (tcg_gen_xori_i32_sem T 0xffffffff h1).conseq
      (fun N hN m => Agree.set (Agree.refl _ _) _ ?_)
    unfold bnot
    rw [Nat.xor_comm]
    rfl

theorem tcg_gen_subfi_i32_sem (T : TCGTarget) {r a n : Nat} (c : Nat) (h1 : a < n) :
    Sem (tcg_gen_subfi_i32 T r c a) n
      (fun m => m.set r ((c % 2 ^ 32 + 2 ^ 32 - m.regs a % 2 ^ 32) % 2 ^ 32)) := by
  unfold tcg_gen_subfi_i32
  split_ifs with c0
  · obtain ⟨rfl, -⟩ := c0
    refine (Sem.op1 .neg_i32 (fun x => (2 ^ 32 - x % 2 ^ 32) % 2 ^ 32) (fun _ => rfl) h1).conseq
      (fun N hN m => Agree.set (Agree.refl _ _) _ ?_)
    simp
  · exact Sem.imm32 c (fun x y => (y % 2 ^ 32 + 2 ^ 32 - x % 2 ^ 32) % 2 ^ 32) _ h1
      (fun t ht => tcg_gen_sub_i32_sem (show t < t + 1 by omega) (show a < t + 1 by omega))
      (fun x => by show (c % 2 ^ 32 % 2 ^ 32 + 2 ^ 32 - x % 2 ^ 32) % 2 ^ 32 = _
                   rw [Nat.mod_mod])

theorem tcg_gen_neg_i32_sem (T : TCGTarget) {r a n : Nat} (h1 : a < n) :
    Sem (tcg_gen_neg_i32 T r a) n
      (fun m => m.set r ((2 ^ 32 - m.regs a % 2 ^ 32) % 2 ^ 32)) := by
  unfold tcg_gen_neg_i32
  split_ifs with c0
  · exact Sem.op1 .neg_i32 (fun x => (2 ^ 32 - x % 2 ^ 32) % 2 ^ 32) (fun _ => rfl) h1
  · refine (tcg_gen_subfi_i32_sem T 0 h1).conseq
      (fun N hN m => Agree.set (Agree.refl _ _) _ ?_)
    simp

theorem tcg_gen_andc_i32_sem (T : TCGTarget) {r a b n : Nat} (ha : a < n) (hb : b < n) :
    Sem (tcg_gen_andc_i32 T r a b) n
      (fun m => m.set r (m.regs a % 2 ^ 32 &&& bnot 32 (m.regs b))) := by
  unfold tcg_gen_andc_i32
  split_ifs with c0
  · exact (Sem.op2 .andc_i32 (fun x y => x % 2 ^ 32 &&& bnot 32 (y % 2 ^ 32)) (fun _ => rfl)
      ha hb).conseq (fun N hN m => Agree.set (Agree.refl _ _) _ (by rw [bnot_mod]))
  · refine Sem.new (Local.set2 r (fun x y => x % 2 ^ 32 &&& bnot 32 y) ha hb)
      (fun t ht => Sem.bind (tcg_gen_not_i32_sem T (r := t) (a := b) (by omega))
        (Sem.bind (tcg_gen_and_i32_sem (r := r) (a := a) (b := t) (by omega) (by omega))
          (Sem.free t _)))
      (fun t ht m => ?_)
    refine ⟨by simp [Machine.set, Function.comp], fun i hi => ?_⟩
    have hat : a ≠ t := by omega
    have hit : i ≠ t := by omega
    simp only [Function.comp, id, Machine.set_regs, hat, hit, if_false, if_true,
      Nat.mod_eq_of_lt (bnot_lt 32 _)]

theorem TCGCond.ofArg_toArg (c : TCGCond) : TCGCond.ofArg c.toArg = c := by
  cases c <;> rfl

theorem toInt_mod (w x : Nat) : toInt w (x % 2 ^ w) = toInt w x := by
  unfold toInt; rw [Nat.mod_mod]

theorem TCGCond.eval_mod (w : Nat) (c : TCGCond) (a b : Nat) :
    c.eval w (a % 2 ^ w) (b % 2 ^ w) = c.eval w a b := by
  cases c <;> simp only [TCGCond.eval, Nat.mod_mod, toInt_mod]

theorem tcg_gen_setcond_i32_sem {r a b n : Nat} (cond : TCGCond) (ha : a < n) (hb : b < n) :
    Sem (tcg_gen_setcond_i32 cond r a b) n
      (fun m => m.set r (if cond.eval 32 (m.regs a) (m.regs b) then 1 else 0)) := by
  unfold tcg_gen_setcond_i32
  split_ifs with c0 c1
  · subst c0
    exact (tcg_gen_movi_i32_sem r 1 n).conseq (fun N hN m => Agree.set (Agree.refl _ _) _ rfl)
  · subst c1
    exact (tcg_gen_movi_i32_sem r 0 n).conseq (fun N hN m => Agree.set (Agree.refl _ _) _ rfl)
  · unfold tcg_gen_op4
    refine (Sem.emit2 .setcond_i32 _ (r := r) (a := a) (b := b)
      (fun x y => if cond.eval 32 (x % 2 ^ 32) (y % 2 ^ 32) then 1 else 0) (fun m => ?_)
      ha hb).conseq (fun N hN m => Agree.set (Agree.refl _ _) _ (by rw [TCGCond.eval_mod]))
    show Machine.set m r (if (TCGCond.ofArg cond.toArg).eval 32 _ _ = true then 1 else 0) = _
    rw [TCGCond.ofArg_toArg]
    rfl

theorem movcond_mask (w : Nat) (b : Bool) (x y : Nat) (hx : x < 2 ^ w) (hy : y < 2 ^ w) :
    (y &&& bnot w ((2 ^ w - (if b = true then 1 else 0) % 2 ^ w) % 2 ^ w)) |||
      (x &&& (2 ^ w - (if b = true then 1 else 0) % 2 ^ w) % 2 ^ w) = if b = true then x else y := by
  have hp := Nat.two_pow_pos w
  rcases Nat.eq_zero_or_pos w with h0 | h0
  · subst h0
    simp at hx hy
    subst hx hy
    cases b <;> simp
  have h1 : 1 < 2 ^ w := Nat.one_lt_two_pow (by omega)
  cases b
  · simp only [Bool.false_eq_true, if_false, Nat.zero_mod, Nat.sub_zero, Nat.mod_self,
      Nat.and_zero, Nat.or_zero]
    unfold bnot
    rw [Nat.zero_mod, Nat.xor_zero, Nat.and_pow_two_sub_one_eq_mod, Nat.mod_eq_of_lt hy]
  · simp only [if_true, Nat.mod_eq_of_lt h1]
    rw [Nat.mod_eq_of_lt (by omega : 2 ^ w - 1 < 2 ^ w)]
    unfold bnot
    rw [Nat.mod_eq_of_lt (by omega : 2 ^ w - 1 < 2 ^ w), Nat.xor_self, Nat.and_zero,
      Nat.zero_or, Nat.and_pow_two_sub_one_eq_mod, Nat.mod_eq_of_lt hx]

theorem tcg_gen_movcond_i32_sem (T : TCGTarget) {r c1 c2 v1 v2 n : Nat} (cond : TCGCond)
    (h1 : c1 < n) (h2 : c2 < n) (h3 : v1 < n) (h4 : v2 < n) (hr : r < n) :
    Sem (tcg_gen_movcond_i32 T cond r c1 c2 v1 v2) n
      (fun m => m.set r (if cond.eval 32 (m.regs c1) (m.regs c2) then m.regs v1 % 2 ^ 32
        else m.regs v2 % 2 ^ 32)) := by
  have hL : Local n (fun m => m.set r (if cond.eval 32 (m.regs c1) (m.regs c2)
      then m.regs v1 % 2 ^ 32 else m.regs v2 % 2 ^ 32)) :=
    Local.set_of r (fun m m' h => by
      rw [h.2 c1 h1, h.2 c2 h2, h.2 v1 h3, h.2 v2 h4])
  unfold tcg_gen_movcond_i32
  split_ifs with c0 c1' c2'
  · subst c0
    exact (tcg_gen_mov_i32_sem h3).conseq (fun N hN m => Agree.set (Agree.refl _ _) _ rfl)
  · subst c1'
    exact (tcg_gen_mov_i32_sem h4).conseq (fun N hN m => Agree.set (Agree.refl _ _) _ rfl)
  · unfold tcg_gen_op6
    have e : exec_op ⟨.movcond_i32, [r, c1, c2, v1, v2, cond.toArg]⟩ =
        fun m => m.set r (if cond.eval 32 (m.regs c1) (m.regs c2) then m.regs v1 % 2 ^ 32
          else m.regs v2 % 2 ^ 32) := by
      funext m
      show Machine.set m r (if (TCGCond.ofArg cond.toArg).eval 32 _ _ = true then _ else _) = _
      rw [TCGCond.ofArg_toArg]
      show Machine.set m r (if cond.eval 32 (m.regs c1 % 2 ^ 32) (m.regs c2 % 2 ^ 32) = true
        then _ else _) = _
      rw [TCGCond.eval_mod]
      rfl
    rw [← e]
    exact Sem.emit _ _ _ (e ▸ hL)
  · refine Sem.new2 hL
      (fun t ht => Sem.bind (tcg_gen_setcond_i32_sem (r := t) cond (a := c1) (b := c2)
          (by omega) (by omega))
        (Sem.bind (tcg_gen_neg_i32_sem T (r := t) (a := t) (by omega))
        (Sem.bind (tcg_gen_and_i32_sem (r := t + 1) (a := v1) (b := t) (by omega) (by omega))
        (Sem.bind (tcg_gen_andc_i32_sem T (r := r) (a := v2) (b := t) (by omega) (by omega))
        (Sem.bind (tcg_gen_or_i32_sem (r := r) (a := r) (b := t + 1) (by omega) (by omega))
        (Sem.bind (Sem.free t _) (Sem.free (t + 1) _)))))))
      (fun t ht m => ?_)
    refine ⟨by simp [Machine.set, Function.comp], fun i hi => ?_⟩
    have e1 : c1 ≠ t := by omega
    have e2 : c2 ≠ t := by omega
    have e3 : v1 ≠ t := by omega
    have e4 : v2 ≠ t := by omega
    have e5 : v2 ≠ t + 1 := by omega
    have e6 : t ≠ t + 1 := by omega
    have e7 : i ≠ t := by omega
    have e8 : i ≠ t + 1 := by omega
    have e9 : t + 1 ≠ r := by omega
    have e10 : t + 1 ≠ t := by omega
    simp only [Function.comp, id, Machine.set_regs, e1, e2, e3, e4, e5, e6, e7, e8, e9, e10,
      if_false, if_true]
    split
    · have hm := movcond_mask 32 (cond.eval 32 (m.regs c1) (m.regs c2)) (m.regs v1 % 2 ^ 32)
        (m.regs v2 % 2 ^ 32) (Nat.mod_lt _ (by norm_num)) (Nat.mod_lt _ (by norm_num))
      rw [← hm]
      have hb : ∀ k, (m.regs v2 % 2 ^ 32 &&& bnot 32 k) % 2 ^ 32 =
          m.regs v2 % 2 ^ 32 &&& bnot 32 k := fun k =>
        Nat.mod_eq_of_lt (lt_of_le_of_lt Nat.and_le_left (Nat.mod_lt _ (by norm_num)))
      have hc : ∀ k, (m.regs v1 % 2 ^ 32 &&& k % 2 ^ 32) % 2 ^ 32 =
          m.regs v1 % 2 ^ 32 &&& k % 2 ^ 32 := fun k =>
        Nat.mod_eq_of_lt (lt_of_le_of_lt Nat.and_le_left (Nat.mod_lt _ (by norm_num)))
      simp only [hb, hc, Nat.mod_mod]
    · rfl
theorem tcg_gen_xori_i64_sem (T : TCGTarget) {r a n : Nat} (c : Nat)
    (h1 : a + T.w64 ≤ n) (hra : r = a ∨ r + T.w64 ≤ a ∨ a + T.w64 ≤ r) :
    Sem (tcg_gen_xori_i64 T r a c) n
      (fun m => m.set64 T r (m.get64 T a ^^^ c)) := by
  have hw1 := w64_pos T
  unfold tcg_gen_xori_i64
  cases hT : T.reg64
  · have hw := w64_of_reg32 hT
    simp only [Bool.false_eq_true, not_false_eq_true, if_true, TCGV_LOW, TCGV_HIGH]
    refine Sem.pairwise1 hT (fun x => x % 2 ^ 32 ^^^ c % 2 ^ 32 % 2 ^ 32)
      (fun x => x % 2 ^ 32 ^^^ (c >>> 32) % 2 ^ 32 % 2 ^ 32) (fun x => x ^^^ c)
      (tcg_gen_xori_i32_sem T _ (by omega)) (tcg_gen_xori_i32_sem T _ (by omega))
      (fun x x' => ?_) (fun x x' => ?_) (by omega)
    · apply Nat.eq_of_testBit_eq; intro i
      simp only [Nat.testBit_xor, Nat.testBit_mod_two_pow, testBit_pair64]
      rcases Nat.lt_or_ge i 32 with h | h
      all_goals simp (disch := omega) only [decide_eq_true, decide_eq_false, Bool.and_true,
        Bool.true_and, Bool.false_and, Bool.and_false, Bool.or_false, Bool.false_or,
        Bool.xor_false]
    · apply Nat.eq_of_testBit_eq; intro i
      simp only [Nat.testBit_xor, Nat.testBit_mod_two_pow, testBit_pair64,
        Nat.testBit_shiftRight, Nat.add_sub_cancel_left]
      rcases Nat.lt_or_ge i 32 with h | h
      all_goals simp (disch := omega) only [decide_eq_true, decide_eq_false, Bool.and_true,
        Bool.true_and, Bool.false_and, Bool.and_false, Bool.or_false, Bool.false_or,
        Bool.xor_false]
  · have hw := w64_of_reg64 hT
    simp only [not_true_eq_false, if_false]
    split_ifs with c0 c1
    · subst c0
      refine (tcg_gen_mov_i64_sem T h1 hra).conseq (fun N _ m => ?_)
      rw [Nat.xor_zero]
      exact Agree.refl _ _
    · obtain ⟨rfl, -⟩ := c1
      refine (Sem.op1_64 hT .not_i64 (fun x => bnot 64 x) (fun _ => rfl)
        (fun x hx => bnot_lt 64 x) (by omega)).conseq (fun N _ m => ?_)
      refine Agree.set64 T (Agree.refl _ _) r ?_
      congr 1
      unfold bnot
      rw [Nat.mod_eq_of_lt (Machine.get64_lt T m a), Nat.xor_comm]
      rfl
    · refine (Sem.imm64 T c (fun x y => x ^^^ y) (fun x => x ^^^ c % 2 ^ 64) h1
        (fun t ht => tcg_gen_xor_i64_sem T (by omega) (by omega) (by omega) (by omega))
        (fun x => rfl)).conseq (fun N _ m => ?_)
      refine Agree.set64 T (Agree.refl _ _) r ?_
      apply Nat.eq_of_testBit_eq; intro i
      simp only [Nat.testBit_xor, Nat.testBit_mod_two_pow]
      cases decide (i < 64) <;> simp

theorem tcg_gen_ori_i64_sem (T : TCGTarget) {r a n : Nat} (c : Nat)
    (h1 : a + T.w64 ≤ n) (hra : r = a ∨ r + T.w64 ≤ a ∨ a + T.w64 ≤ r) :
    Sem (tcg_gen_ori_i64 T r a c) n
      (fun m => m.set64 T r (m.get64 T a ||| c)) := by
  have hw1 := w64_pos T
  unfold tcg_gen_ori_i64
  cases hT : T.reg64
  · have hw := w64_of_reg32 hT
    simp only [Bool.false_eq_true, not_false_eq_true, if_true, TCGV_LOW, TCGV_HIGH]
    refine Sem.pairwise1 hT (fun x => x % 2 ^ 32 ||| c % 2 ^ 32 % 2 ^ 32)
      (fun x => x % 2 ^ 32 ||| (c >>> 32) % 2 ^ 32 % 2 ^ 32) (fun x => x ||| c)
      (tcg_gen_ori_i32_sem _ (by omega)) (tcg_gen_ori_i32_sem _ (by omega))
      (fun x x' => ?_) (fun x x' => ?_) (by omega)
    · apply Nat.eq_of_testBit_eq; intro i
      simp only [Nat.testBit_or, Nat.testBit_mod_two_pow, testBit_pair64]
      rcases Nat.lt_or_ge i 32 with h | h
      all_goals simp (disch := omega) only [decide_eq_true, decide_eq_false, Bool.and_true,
        Bool.true_and, Bool.false_and, Bool.and_false, Bool.or_false, Bool.false_or]
    · apply Nat.eq_of_testBit_eq; intro i
      simp only [Nat.testBit_or, Nat.testBit_mod_two_pow, testBit_pair64,
        Nat.testBit_shiftRight, Nat.add_sub_cancel_left]
      rcases Nat.lt_or_ge i 32 with h | h
      all_goals simp (disch := omega) only [decide_eq_true, decide_eq_false, Bool.and_true,
        Bool.true_and, Bool.false_and, Bool.and_false, Bool.or_false, Bool.false_or]
  · have hw := w64_of_reg64 hT
    simp only [not_true_eq_false, if_false]
    split_ifs with c0 c1
    · subst c0
      refine (tcg_gen_movi_i64_sem T r _ n).conseq (fun N _ m => ?_)
      refine Agree.set64 T (Agree.refl _ _) r ?_
      apply Nat.eq_of_testBit_eq; intro i
      rw [show (18446744073709551615 : Nat) = 2 ^ 64 - 1 by norm_num]
      simp only [Nat.testBit_or, Nat.testBit_mod_two_pow, Nat.testBit_two_pow_sub_one]
      cases decide (i < 64) <;> simp
    · subst c1
      refine (tcg_gen_mov_i64_sem T h1 hra).conseq (fun N _ m => ?_)
      rw [Nat.or_zero]
      exact Agree.refl _ _
    · refine (Sem.imm64 T c (fun x y => x ||| y) (fun x => x ||| c % 2 ^ 64) h1
        (fun t ht => tcg_gen_or_i64_sem T (by omega) (by omega) (by omega) (by omega))
        (fun x => rfl)).conseq (fun N _ m => ?_)
      refine Agree.set64 T (Agree.refl _ _) r ?_
      apply Nat.eq_of_testBit_eq; intro i
      simp only [Nat.testBit_or, Nat.testBit_mod_two_pow]
      cases decide (i < 64) <;> simp

theorem tcg_gen_not_i64_sem (T : TCGTarget) {r a n : Nat}
    (h1 : a + T.w64 ≤ n) (hra : r = a ∨ r + T.w64 ≤ a ∨ a + T.w64 ≤ r) :
    Sem (tcg_gen_not_i64 T r a) n (fun m => m.set64 T r (bnot 64 (m.get64 T a))) := by
  have hw1 := w64_pos T
  unfold tcg_gen_not_i64
  cases hT : T.reg64
  · have hw := w64_of_reg32 hT
    simp only [Bool.false_eq_true, not_false_eq_true, if_true, TCGV_LOW, TCGV_HIGH]
    refine Sem.pairwise1 hT (fun x => bnot 32 x) (fun x => bnot 32 x) (fun x => bnot 64 x)
      (tcg_gen_not_i32_sem T (by omega)) (tcg_gen_not_i32_sem T (by omega))
      (fun x x' => ?_) (fun x x' => ?_) (by omega)
    · apply Nat.eq_of_testBit_eq; intro i
      simp only [testBit_bnot, Nat.testBit_mod_two_pow, testBit_pair64]
      rcases Nat.lt_or_ge i 32 with h | h
      all_goals simp (disch := omega) only [decide_eq_true, decide_eq_false, Bool.and_true,
        Bool.true_and, Bool.false_and, Bool.and_false, Bool.or_false, Bool.false_or]
    · apply Nat.eq_of_testBit_eq; intro i
      simp only [testBit_bnot, Nat.testBit_mod_two_pow, testBit_pair64,
        Nat.testBit_shiftRight, Nat.add_sub_cancel_left]
      rcases Nat.lt_or_ge i 32 with h | h
      all_goals simp (disch := omega) only [decide_eq_true, decide_eq_false, Bool.and_true,
        Bool.true_and, Bool.false_and, Bool.and_false, Bool.or_false, Bool.false_or]
  · have hw := w64_of_reg64 hT
    simp only [not_true_eq_false, if_false]
    split_ifs with c0
    · exact Sem.op1_64 hT .not_i64 (fun x => bnot 64 x) (fun _ => rfl)
        (fun x hx => bnot_lt 64 x) (by omega)
    · refine (tcg_gen_xori_i64_sem T 0xffffffffffffffff h1 hra).conseq (fun N _ m => ?_)
      refine Agree.set64 T (Agree.refl _ _) r ?_
      congr 1
      unfold bnot
      rw [Nat.mod_eq_of_lt (Machine.get64_lt T m a), Nat.xor_comm]
      rfl

theorem tcg_gen_subfi_i64_sem (T : TCGTarget) {r a n : Nat} (c : Nat)
    (h1 : a + T.w64 ≤ n) :
    Sem (tcg_gen_subfi_i64 T r c a) n
      (fun m => m.set64 T r ((c % 2 ^ 64 + 2 ^ 64 - m.get64 T a) % 2 ^ 64)) := by
  have hw1 := w64_pos T
  unfold tcg_gen_subfi_i64
  split_ifs with c0
  · obtain ⟨rfl, hneg⟩ := c0
    have hT : T.reg64 = true := by
      simp only [TCGTarget.TCG_TARGET_HAS_neg_i64, Bool.and_eq_true] at hneg
      exact hneg.1
    have hw := w64_of_reg64 hT
    refine (Sem.op1_64 hT .neg_i64 (fun x => (2 ^ 64 - x) % 2 ^ 64) (fun _ => ?_)
      (fun x hx => Nat.mod_lt _ (by norm_num)) (by omega)).conseq (fun N _ m => ?_)
    · show Machine.set _ r ((2 ^ 64 - _ % 2 ^ 64) % 2 ^ 64) = _
      rfl
    · simp only [Nat.zero_mod, Nat.zero_add]
      exact Agree.refl _ _
  · exact Sem.imm64 T c (fun x y => (y + 2 ^ 64 - x) % 2 ^ 64)
      (fun x => (c % 2 ^ 64 + 2 ^ 64 - x) % 2 ^ 64) h1
      (fun t ht => tcg_gen_sub_i64_sem T (by omega) (by omega)) (fun x => rfl)

theorem tcg_gen_neg_i64_sem (T : TCGTarget) {r a n : Nat} (h1 : a + T.w64 ≤ n) :
    Sem (tcg_gen_neg_i64 T r a) n
      (fun m => m.set64 T r ((2 ^ 64 - m.get64 T a) % 2 ^ 64)) := by
  have hw1 := w64_pos T
  unfold tcg_gen_neg_i64
  split_ifs with c0
  · have hT : T.reg64 = true := by
      simp only [TCGTarget.TCG_TARGET_HAS_neg_i64, Bool.and_eq_true] at c0
      exact c0.1
    have hw := w64_of_reg64 hT
    exact Sem.op1_64 hT .neg_i64 (fun x => (2 ^ 64 - x) % 2 ^ 64) (fun _ => rfl)
      (fun x hx => Nat.mod_lt _ (by norm_num)) (by omega)
  · refine (tcg_gen_subfi_i64_sem T 0 h1).conseq (fun N _ m => ?_)
    simp only [Nat.zero_mod, Nat.zero_add]
    exact Agree.refl _ _

theorem tcg_gen_andc_i64_sem (T : TCGTarget) {r a b n : Nat} (ha : a + T.w64 ≤ n)
    (hb : b + T.w64 ≤ n) (hra : r = a ∨ r + T.w64 ≤ a ∨ a + T.w64 ≤ r)
    (hrb : r = b ∨ r + T.w64 ≤ b ∨ b + T.w64 ≤ r) :
    Sem (tcg_gen_andc_i64 T r a b) n
      (fun m => m.set64 T r (m.get64 T a &&& bnot 64 (m.get64 T b))) := by
  have hw1 := w64_pos T
  unfold tcg_gen_andc_i64
  cases hT : T.reg64
  · have hw := w64_of_reg32 hT
    simp only [Bool.false_eq_true, not_false_eq_true, if_true, TCGV_LOW, TCGV_HIGH]
    refine Sem.pairwise2 hT (fun x y => x % 2 ^ 32 &&& bnot 32 y)
      (fun x y => x % 2 ^ 32 &&& bnot 32 y) (fun x y => x &&& bnot 64 y)
      (tcg_gen_andc_i32_sem T (by omega) (by omega))
      (tcg_gen_andc_i32_sem T (by omega) (by omega))
      (fun x x' y y' => ?_) (fun x x' y y' => ?_) (by omega) (by omega)
    · apply Nat.eq_of_testBit_eq; intro i
      simp only [Nat.testBit_and, testBit_bnot, Nat.testBit_mod_two_pow, testBit_pair64]
      rcases Nat.lt_or_ge i 32 with h | h
      all_goals simp (disch := omega) only [decide_eq_true, decide_eq_false, Bool.and_true,
        Bool.true_and, Bool.false_and, Bool.and_false, Bool.or_false, Bool.false_or]
    · apply Nat.eq_of_testBit_eq; intro i
      simp only [Nat.testBit_and, testBit_bnot, Nat.testBit_mod_two_pow, testBit_pair64,
        Nat.testBit_shiftRight, Nat.add_sub_cancel_left]
      rcases Nat.lt_or_ge i 32 with h | h
      all_goals simp (disch := omega) only [decide_eq_true, decide_eq_false, Bool.and_true,
        Bool.true_and, Bool.false_and, Bool.and_false, Bool.or_false, Bool.false_or]
  · have hw := w64_of_reg64 hT
    simp only [not_true_eq_false, if_false]
    split_ifs with c0
    · exact Sem.op2_64 hT .andc_i64 (fun x y => x &&& bnot 64 y) (fun _ => rfl)
        (fun x y hx => lt_of_le_of_lt Nat.and_le_left hx) (by omega) (by omega)
    · refine Sem.new64 T (fun t ht => Sem.bind
        (tcg_gen_not_i64_sem T (r := t) (a := b) (by omega) (by omega))
        (Sem.bind (tcg_gen_and_i64_sem T (r := r) (a := a) (b := t) (by omega) (by omega)
          (by omega) (by omega)) (Sem.free64 t _))) (fun t ht m => ?_)
        (Local.set64_2 T r (fun x y => x &&& bnot 64 y) ha hb)
      simp only [Function.comp, id]
      simp (disch := omega) only [Machine.get64_set64_self, Machine.get64_set64_ne]
      refine Agree.of_set64 T (by simp) ?_ (fun i hi hne => ?_)
      · rw [Nat.mod_eq_of_lt (bnot_lt 64 _)]
      · simp (disch := omega) only [Machine.set64_regs_ne]

theorem tcg_gen_setcond_i64_sem (T : TCGTarget) {r a b n : Nat} (cond : TCGCond)
    (ha : a + T.w64 ≤ n) (hb : b + T.w64 ≤ n) :
    Sem (tcg_gen_setcond_i64 T cond r a b) n
      (fun m => m.set64 T r (if cond.eval 64 (m.get64 T a) (m.get64 T b) then 1 else 0)) := by
  have hw1 := w64_pos T
  have hL := Local.set64_2 T r (fun x y => if cond.eval 64 x y then 1 else 0) ha hb
  unfold tcg_gen_setcond_i64
  split_ifs with c0 c1 c2
  · subst c0
    exact (tcg_gen_movi_i64_sem T r 1 n).conseq (fun N _ m => Agree.refl _ _)
  · subst c1
    exact (tcg_gen_movi_i64_sem T r 0 n).conseq (fun N _ m => Agree.refl _ _)
  · have hT : T.reg64 = true := by simpa using c2
    have hw := w64_of_reg64 hT
    have e : exec_op ⟨.setcond_i64, [r, a, b, cond.toArg]⟩ =
        fun m => m.set64 T r (if cond.eval 64 (m.get64 T a) (m.get64 T b) then 1 else 0) := by
      funext m
      show Machine.set m r (if (TCGCond.ofArg cond.toArg).eval 64
        (m.regs a % 2 ^ 64) (m.regs b % 2 ^ 64) = true then 1 else 0) = _
      rw [TCGCond.ofArg_toArg, Machine.set64_of_reg64 hT, Machine.get64_of_reg64 hT,
        Machine.get64_of_reg64 hT]
      congr 1
      split <;> rfl
    unfold tcg_gen_op4
    rw [← e]
    exact Sem.emit _ _ _ (e ▸ hL)
  · have hT : T.reg64 = false := by simpa using c2
    have hw := w64_of_reg32 hT
    simp only [TCGV_LOW, TCGV_HIGH]
    have e : exec_op ⟨.setcond2_i32, [r, a, a + 1, b, b + 1, cond.toArg]⟩ =
        fun m => m.set r (if cond.eval 64 (m.get64 T a) (m.get64 T b) then 1 else 0) := by
      funext m
      show Machine.set m r (if (TCGCond.ofArg cond.toArg).eval 64
        (m.regs a % 2 ^ 32 + m.regs (a + 1) % 2 ^ 32 * 2 ^ 32)
        (m.regs b % 2 ^ 32 + m.regs (b + 1) % 2 ^ 32 * 2 ^ 32) = true then 1 else 0) = _
      rw [TCGCond.ofArg_toArg, ← pair64_eq_add, ← pair64_eq_add,
        Machine.get64_of_reg32 hT, Machine.get64_of_reg32 hT]
    have hL1 : Local n (fun m : Machine =>
        m.set r (if cond.eval 64 (m.get64 T a) (m.get64 T b) then 1 else 0)) :=
      Local.set_of r (fun m m' h => by rw [h.get64 T ha, h.get64 T hb])
    unfold tcg_gen_op6
    refine (@Sem.bind _ _ _ (fun m => m.set r (if cond.eval 64 (m.get64 T a) (m.get64 T b)
        then 1 else 0)) _ (e ▸ Sem.emit _ _ _ (e ▸ hL1))
      (tcg_gen_movi_i32_sem (r + 1) 0 n)).conseq (fun N _ m => ?_)
    refine Agree.of_pair hT (by simp [Machine.set]) ?_ ?_ (fun i hi h1 h2 => ?_)
    · have : r ≠ r + 1 := by omega
      simp only [Function.comp, Machine.set_regs, this, if_false, if_true]
      split <;> rfl
    · simp only [Function.comp, Machine.set_regs, if_true]
      split <;> rfl
    · simp only [Function.comp, Machine.set_regs, h1, h2, if_false]

theorem ne_eval_flag (b : Bool) :
    TCGCond.eval 32 .NE (if b = true then 1 else 0) 0 = b := by
  cases b <;> rfl

theorem tcg_gen_movcond_i64_sem (T : TCGTarget) {r c1 c2 v1 v2 n : Nat} (cond : TCGCond)
    (h1 : c1 + T.w64 ≤ n) (h2 : c2 + T.w64 ≤ n) (h3 : v1 + T.w64 ≤ n) (h4 : v2 + T.w64 ≤ n)
    (hr : r + T.w64 ≤ n) (hr1 : r = v1 ∨ r + T.w64 ≤ v1 ∨ v1 + T.w64 ≤ r)
    (hr2 : r = v2 ∨ r + T.w64 ≤ v2 ∨ v2 + T.w64 ≤ r) :
    Sem (tcg_gen_movcond_i64 T cond r c1 c2 v1 v2) n
      (fun m => m.set64 T r (if cond.eval 64 (m.get64 T c1) (m.get64 T c2) then m.get64 T v1
        else m.get64 T v2)) := by
  have hw1 := w64_pos T
  have hL : Local n (fun m => m.set64 T r (if cond.eval 64 (m.get64 T c1) (m.get64 T c2)
      then m.get64 T v1 else m.get64 T v2)) := by
    intro N hN m m' h
    have e1 := h.get64 T (show c1 + T.w64 ≤ N by omega)
    have e2 := h.get64 T (show c2 + T.w64 ≤ N by omega)
    have e3 := h.get64 T (show v1 + T.w64 ≤ N by omega)
    have e4 := h.get64 T (show v2 + T.w64 ≤ N by omega)
    simp only [e1, e2, e3, e4]
    exact Agree.set64 T h r rfl
  unfold tcg_gen_movcond_i64
  by_cases c0 : cond = .ALWAYS
  · subst c0
    simp only [if_true]
    exact (tcg_gen_mov_i64_sem T h3 hr1).conseq (fun N _ m => Agree.refl _ _)
  rw [if_neg c0]
  by_cases c1' : cond = .NEVER
  · subst c1'
    simp only [if_true]
    exact (tcg_gen_mov_i64_sem T h4 hr2).conseq (fun N _ m => Agree.refl _ _)
  rw [if_neg c1']
  cases hT : T.reg64
  · have hw := w64_of_reg32 hT
    simp only [Bool.false_eq_true, not_false_eq_true, if_true, TCGV_LOW, TCGV_HIGH]
    have e : ∀ t, exec_op ⟨.setcond2_i32, [t, c1, c1 + 1, c2, c2 + 1, cond.toArg]⟩ =
        fun m => m.set t (if cond.eval 64 (m.get64 T c1) (m.get64 T c2) then 1 else 0) := by
      intro t
      funext m
      show Machine.set m t (if (TCGCond.ofArg cond.toArg).eval 64
        (m.regs c1 % 2 ^ 32 + m.regs (c1 + 1) % 2 ^ 32 * 2 ^ 32)
        (m.regs c2 % 2 ^ 32 + m.regs (c2 + 1) % 2 ^ 32 * 2 ^ 32) = true then 1 else 0) = _
      rw [TCGCond.ofArg_toArg, ← pair64_eq_add, ← pair64_eq_add,
        Machine.get64_of_reg32 hT, Machine.get64_of_reg32 hT]
    have hS : ∀ t, n ≤ t → Sem (tcg_gen_op6 .setcond2_i32 t c1 (c1 + 1) c2 (c2 + 1) cond.toArg)
        (t + 2) (fun m => m.set t (if cond.eval 64 (m.get64 T c1) (m.get64 T c2)
          then 1 else 0)) := by
      intro t ht
      unfold tcg_gen_op6
      have hL1 : Local (t + 2) (fun m : Machine =>
          m.set t (if cond.eval 64 (m.get64 T c1) (m.get64 T c2) then 1 else 0)) :=
        Local.set_of t (fun m m' h => by
          rw [h.get64 T (show c1 + T.w64 ≤ t + 2 by omega),
            h.get64 T (show c2 + T.w64 ≤ t + 2 by omega)])
      exact (e t) ▸ Sem.emit _ _ _ ((e t) ▸ hL1)
    by_cases hm : T.TCG_TARGET_HAS_movcond_i32 = true
    · simp only [hm, if_true]
      refine Sem.new2 hL (fun t ht => Sem.bind (hS t ht)
        (Sem.bind (tcg_gen_movi_i32_sem (t + 1) 0 _)
        (Sem.bind (@tcg_gen_movcond_i32_sem T r t (t + 1) v1 v2 _ .NE (by omega) (by omega) (by omega) (by omega) (by omega))
        (Sem.bind (@tcg_gen_movcond_i32_sem T (r + 1) t (t + 1) (v1 + 1) (v2 + 1) _ .NE (by omega) (by omega) (by omega) (by omega) (by omega))
        (Sem.bind (Sem.free t _) (Sem.free (t + 1) _)))))) (fun t ht m => ?_)
      have d1 : t ≠ t + 1 := by omega
      have d2 : t + 1 ≠ t := by omega
      have d3 : v1 ≠ t := by omega
      have d4 : v1 ≠ t + 1 := by omega
      have d5 : v2 ≠ t := by omega
      have d6 : v2 ≠ t + 1 := by omega
      have d7 : v1 + 1 ≠ t := by omega
      have d8 : v1 + 1 ≠ t + 1 := by omega
      have d9 : v2 + 1 ≠ t := by omega
      have d10 : v2 + 1 ≠ t + 1 := by omega
      have d11 : v1 + 1 ≠ r := by omega
      have d12 : v2 + 1 ≠ r := by omega
      have d13 : t ≠ r := by omega
      have d14 : t + 1 ≠ r := by omega
      have d15 : r ≠ r + 1 := by omega
      refine Agree.of_pair hT (by simp [Machine.set, Function.comp]) ?_ ?_
        (fun i hi k1 k2 => ?_)
      · simp only [Function.comp, id, Machine.set_regs, d1, d2, d3, d4, d5, d6, d7, d8, d9, d10,
          d11, d12, d13, d14, d15, if_false, if_true, Nat.zero_mod, ne_eval_flag,
          Machine.get64_of_reg32 hT]
        by_cases hE : cond.eval 64 (pair64 (m.regs c1) (m.regs (c1 + 1)))
          (pair64 (m.regs c2) (m.regs (c2 + 1))) = true
        all_goals simp only [hE, if_true, if_false, pair64_low, Bool.false_eq_true]
      · simp only [Function.comp, id, Machine.set_regs, d1, d2, d3, d4, d5, d6, d7, d8, d9, d10,
          d11, d12, d13, d14, d15, if_false, if_true, Nat.zero_mod, ne_eval_flag,
          Machine.get64_of_reg32 hT]
        by_cases hE : cond.eval 64 (pair64 (m.regs c1) (m.regs (c1 + 1)))
          (pair64 (m.regs c2) (m.regs (c2 + 1))) = true
        all_goals simp only [hE, if_true, if_false, pair64_high, Bool.false_eq_true]
      · have k3 : i ≠ t := by omega
        have k4 : i ≠ t + 1 := by omega
        simp only [Function.comp, id, Machine.set_regs, k1, k2, k3, k4, if_false]
    · simp only [hm, if_false]
      refine Sem.new2 hL (fun t ht => Sem.bind (hS t ht)
        (Sem.bind (tcg_gen_neg_i32_sem T (r := t) (a := t) (by omega))
        (Sem.bind (tcg_gen_and_i32_sem (r := t + 1) (a := v1) (b := t) (by omega) (by omega))
        (Sem.bind (tcg_gen_andc_i32_sem T (r := r) (a := v2) (b := t) (by omega) (by omega))
        (Sem.bind (tcg_gen_or_i32_sem (r := r) (a := r) (b := t + 1) (by omega) (by omega))
        (Sem.bind (tcg_gen_and_i32_sem (r := t + 1) (a := v1 + 1) (b := t) (by omega)
          (by omega))
        (Sem.bind (tcg_gen_andc_i32_sem T (r := r + 1) (a := v2 + 1) (b := t) (by omega)
          (by omega))
        (Sem.bind (tcg_gen_or_i32_sem (r := r + 1) (a := r + 1) (b := t + 1) (by omega)
          (by omega))
        (Sem.bind (Sem.free t _) (Sem.free (t + 1) _)))))))))) (fun t ht m => ?_)
      have d1 : t ≠ t + 1 := by omega
      have d2 : t + 1 ≠ t := by omega
      have d3 : v1 ≠ t := by omega
      have d4 : v1 ≠ t + 1 := by omega
      have d5 : v2 ≠ t := by omega
      have d6 : v2 ≠ t + 1 := by omega
      have d7 : v1 + 1 ≠ t := by omega
      have d8 : v1 + 1 ≠ t + 1 := by omega
      have d9 : v2 + 1 ≠ t := by omega
      have d10 : v2 + 1 ≠ t + 1 := by omega
      have d11 : v1 + 1 ≠ r := by omega
      have d12 : v2 + 1 ≠ r := by omega
      have d13 : t ≠ r := by omega
      have d14 : t + 1 ≠ r := by omega
      have d15 : r ≠ r + 1 := by omega
      have d16 : r + 1 ≠ r := by omega
      have d17 : t ≠ r + 1 := by omega
      have d18 : t + 1 ≠ r + 1 := by omega
      have d19 : r ≠ t := by omega
      have d20 : r ≠ t + 1 := by omega
      have d21 : r + 1 ≠ t := by omega
      have d22 : r + 1 ≠ t + 1 := by omega
      have hb : ∀ x k, (x % 2 ^ 32 &&& bnot 32 k) % 2 ^ 32 = x % 2 ^ 32 &&& bnot 32 k :=
        fun x k => Nat.mod_eq_of_lt (lt_of_le_of_lt Nat.and_le_left (Nat.mod_lt _ (by norm_num)))
      have hc : ∀ x k, (x % 2 ^ 32 &&& k % 2 ^ 32) % 2 ^ 32 = x % 2 ^ 32 &&& k % 2 ^ 32 :=
        fun x k => Nat.mod_eq_of_lt (lt_of_le_of_lt Nat.and_le_left (Nat.mod_lt _ (by norm_num)))
      refine Agree.of_pair hT (by simp [Machine.set, Function.comp]) ?_ ?_
        (fun i hi k1 k2 => ?_)
      · simp only [Function.comp, id, Machine.set_regs, d1, d2, d3, d4, d5, d6, d7, d8, d9, d10,
          d11, d12, d13, d14, d15, d16, d17, d18, d19, d20, d21, d22, if_false, if_true,
          Machine.get64_of_reg32 hT, hb, hc, Nat.mod_mod]
        have hm := movcond_mask 32 (cond.eval 64 (pair64 (m.regs c1) (m.regs (c1 + 1)))
          (pair64 (m.regs c2) (m.regs (c2 + 1)))) (m.regs v1 % 2 ^ 32)
          (m.regs v2 % 2 ^ 32) (Nat.mod_lt _ (by norm_num)) (Nat.mod_lt _ (by norm_num))
        simp only [Nat.mod_mod] at hm
        rw [hm]
        by_cases hE : cond.eval 64 (pair64 (m.regs c1) (m.regs (c1 + 1)))
          (pair64 (m.regs c2) (m.regs (c2 + 1))) = true
        all_goals simp only [hE, if_true, if_false, pair64_low, Bool.false_eq_true]
      · simp only [Function.comp, id, Machine.set_regs, d1, d2, d3, d4, d5, d6, d7, d8, d9, d10,
          d11, d12, d13, d14, d15, d16, d17, d18, d19, d20, d21, d22, if_false, if_true,
          Machine.get64_of_reg32 hT, hb, hc, Nat.mod_mod]
        have hm := movcond_mask 32 (cond.eval 64 (pair64 (m.regs c1) (m.regs (c1 + 1)))
          (pair64 (m.regs c2) (m.regs (c2 + 1)))) (m.regs (v1 + 1) % 2 ^ 32)
          (m.regs (v2 + 1) % 2 ^ 32) (Nat.mod_lt _ (by norm_num)) (Nat.mod_lt _ (by norm_num))
        simp only [Nat.mod_mod] at hm
        rw [hm]
        by_cases hE : cond.eval 64 (pair64 (m.regs c1) (m.regs (c1 + 1)))
          (pair64 (m.regs c2) (m.regs (c2 + 1))) = true
        all_goals simp only [hE, if_true, if_false, pair64_high, Bool.false_eq_true]
      · have k3 : i ≠ t := by omega
        have k4 : i ≠ t + 1 := by omega
        simp only [Function.comp, id, Machine.set_regs, k1, k2, k3, k4, if_false]
  · have hw := w64_of_reg64 hT
    simp only [not_true_eq_false, if_false]
    by_cases hm : T.TCG_TARGET_HAS_movcond_i64 = true
    · simp only [hm, if_true]
      have e : exec_op ⟨.movcond_i64, [r, c1, c2, v1, v2, cond.toArg]⟩ =
          fun m => m.set64 T r (if cond.eval 64 (m.get64 T c1) (m.get64 T c2)
            then m.get64 T v1 else m.get64 T v2) := by
        funext m
        show Machine.set m r (if (TCGCond.ofArg cond.toArg).eval 64
          (m.regs c1 % 2 ^ 64) (m.regs c2 % 2 ^ 64) = true then m.regs v1 % 2 ^ 64
          else m.regs v2 % 2 ^ 64) = _
        rw [TCGCond.ofArg_toArg, Machine.set64_of_reg64 hT]
        simp only [Machine.get64_of_reg64 hT]
        congr 1
        split <;> simp only [Nat.mod_mod]
      unfold tcg_gen_op6
      rw [← e]
      exact Sem.emit _ _ _ (e ▸ hL)
    · simp only [hm, if_false]
      refine Sem.new64_2 T (fun t ht => Sem.bind
        (tcg_gen_setcond_i64_sem T (r := t) cond (a := c1) (b := c2) (by omega) (by omega))
        (Sem.bind (tcg_gen_neg_i64_sem T (r := t) (a := t) (by omega))
        (Sem.bind (tcg_gen_and_i64_sem T (r := t + T.w64) (a := v1) (b := t) (by omega)
          (by omega) (by omega) (by omega))
        (Sem.bind (tcg_gen_andc_i64_sem T (r := r) (a := v2) (b := t) (by omega) (by omega)
          (by omega) (by omega))
        (Sem.bind (tcg_gen_or_i64_sem T (r := r) (a := r) (b := t + T.w64) (by omega)
          (by omega) (by omega) (by omega))
        (Sem.bind (Sem.free64 t _) (Sem.free64 (t + T.w64) _))))))) (fun t ht m => ?_) hL
      simp only [Function.comp, id]
      simp (disch := omega) only [Machine.get64_set64_self, Machine.get64_set64_ne]
      refine Agree.of_set64 T (by simp) ?_ (fun i hi hne => ?_)
      · have hm := movcond_mask 64 (cond.eval 64 (m.get64 T c1) (m.get64 T c2))
          (m.get64 T v1) (m.get64 T v2) (Machine.get64_lt T m v1) (Machine.get64_lt T m v2)
        have hb : ∀ k, (m.get64 T v2 &&& bnot 64 k) % 2 ^ 64 = m.get64 T v2 &&& bnot 64 k :=
          fun k => Nat.mod_eq_of_lt (lt_of_le_of_lt Nat.and_le_left (Machine.get64_lt T m v2))
        have hc : ∀ k, (m.get64 T v1 &&& k) % 2 ^ 64 = m.get64 T v1 &&& k :=
          fun k => Nat.mod_eq_of_lt (lt_of_le_of_lt Nat.and_le_left (Machine.get64_lt T m v1))
        have h01 : ∀ b : Bool, (if b = true then 1 else 0) % 2 ^ 64 = (if b = true then 1 else 0) :=
          fun b => by cases b <;> rfl
        simp only [hb, hc, Nat.mod_mod, h01] at hm ⊢
        rw [hm]
      · simp (disch := omega) only [Machine.set64_regs_ne]
theorem find_range' (p : Nat → Bool) (n k : Nat) :
    k ≤ ((List.range' k n).find? p).getD (k + n) ∧
    ((List.range' k n).find? p).getD (k + n) ≤ k + n ∧
    (((List.range' k n).find? p).getD (k + n) < k + n →
      p (((List.range' k n).find? p).getD (k + n)) = true) ∧
    ∀ i, k ≤ i → i < ((List.range' k n).find? p).getD (k + n) → p i = false := by
  induction n generalizing k with
  | zero =>
    simp only [List.range'_zero, List.find?_nil, Option.getD_none, Nat.add_zero, le_refl,
      lt_self_iff_false, false_implies, true_and]
    intro i h1 h2
    omega
  | succ n ih =>
    rw [List.range'_succ, List.find?_cons]
    cases hp : p k
    · dsimp only
      have := ih (k + 1)
      rw [show k + 1 + n = k + (n + 1) by omega] at this
      obtain ⟨h1, h2, h3, h4⟩ := this
      refine ⟨by omega, h2, h3, fun i hi hlt => ?_⟩
      rcases Nat.eq_or_lt_of_le hi with e | e
      · rw [← e]; exact hp
      · exact h4 i e hlt
    · dsimp only
      simp only [Option.getD_some]
      exact ⟨le_refl _, by omega, fun _ => hp, fun i hi hlt => by omega⟩

theorem ctz_spec (w x : Nat) :
    ctz w x ≤ w ∧ (ctz w x < w → x.testBit (ctz w x) = true) ∧
    ∀ i, i < ctz w x → x.testBit i = false := by
  have h := find_range' (fun i => x.testBit i) w 0
  unfold ctz
  rw [List.range_eq_range']
  simp only [Nat.zero_add] at h
  exact ⟨h.2.1, h.2.2.1, fun i hi => h.2.2.2 i (Nat.zero_le _) hi⟩

theorem ctz_eq_of (w x k : Nat) (hk : k < w) (hb : x.testBit k = true)
    (hlow : ∀ i, i < k → x.testBit i = false) : ctz w x = k := by
  obtain ⟨h1, h2, h3⟩ := ctz_spec w x
  rcases Nat.lt_trichotomy (ctz w x) k with h | h | h
  · have := hlow _ h
    rw [h2 (by omega)] at this
    exact absurd this (by simp)
  · exact h
  · have := h3 k h
    rw [hb] at this
    exact absurd this (by simp)

theorem ctz_eq_width (w x : Nat) (h : ∀ i, i < w → x.testBit i = false) : ctz w x = w := by
  obtain ⟨h1, h2, h3⟩ := ctz_spec w x
  rcases Nat.eq_or_lt_of_le h1 with e | e
  · exact e
  · have := h _ e
    rw [h2 e] at this
    exact absurd this (by simp)

theorem ctz_lt_of_ne_zero (w x : Nat) (hx : x % 2 ^ w ≠ 0) : ctz w x < w := by
  obtain ⟨h1, h2, h3⟩ := ctz_spec w x
  rcases Nat.eq_or_lt_of_le h1 with e | e
  · exfalso
    apply hx
    apply Nat.eq_of_testBit_eq; intro i
    rw [Nat.testBit_mod_two_pow, Nat.zero_testBit]
    rcases Nat.lt_or_ge i w with hi | hi
    · rw [h3 i (by omega)]; simp
    · simp (disch := omega) only [decide_eq_false, Bool.false_and]
  · exact e

theorem ctpop_succ (w x : Nat) :
    ctpop (w + 1) x = ctpop w x + (if x.testBit w then 1 else 0) := by
  unfold ctpop
  rw [List.range_succ, List.filter_append, List.length_append]
  congr 1
  simp only [List.filter_cons, List.filter_nil]
  split <;> rfl

theorem ctpop_le (w x : Nat) : ctpop w x ≤ w := by
  induction w with
  | zero => simp [ctpop]
  | succ w ih => rw [ctpop_succ]; split <;> omega

theorem ctpop_congr (w x y : Nat) (h : ∀ i, i < w → x.testBit i = y.testBit i) :
    ctpop w x = ctpop w y := by
  induction w with
  | zero => simp [ctpop]
  | succ w ih =>
    rw [ctpop_succ, ctpop_succ, ih (fun i hi => h i (by omega)), h w (by omega)]

theorem ctpop_mod (w x : Nat) : ctpop w (x % 2 ^ w) = ctpop w x :=
  ctpop_congr w _ _ (fun i hi => by
    rw [Nat.testBit_mod_two_pow]
    simp (disch := omega) only [decide_eq_true, Bool.true_and])

theorem ctpop_add_of_lt (w d x : Nat) (hx : x < 2 ^ w) : ctpop (w + d) x = ctpop w x := by
  induction d with
  | zero => rfl
  | succ d ih =>
    rw [← Nat.add_assoc, ctpop_succ, ih,
      Nat.testBit_lt_two_pow (lt_of_lt_of_le hx (Nat.pow_le_pow_right (by norm_num) (by omega)))]
    simp

theorem ctpop_mask (w k : Nat) (hk : k ≤ w) : ctpop w (2 ^ k - 1) = k := by
  induction w generalizing k with
  | zero =>
    have : k = 0 := by omega
    subst this; simp [ctpop]
  | succ w ih =>
    rw [ctpop_succ, Nat.testBit_two_pow_sub_one]
    rcases Nat.eq_or_lt_of_le hk with e | e
    · subst e
      have : ctpop w (2 ^ (w + 1) - 1) = w := by
        rw [← ctpop_mod, show (2 ^ (w + 1) - 1) % 2 ^ w = 2 ^ w - 1 from by
          have := Nat.two_pow_pos w
          rw [pow_succ]
          rw [show 2 ^ w * 2 - 1 = 2 ^ w - 1 + 2 ^ w by omega, Nat.add_mod_right,
            Nat.mod_eq_of_lt (by omega)]]
        exact ih w (le_refl _)
      rw [this]
      simp
    · rw [ih k (by omega)]
      simp (disch := omega) only [decide_eq_false, Bool.false_eq_true, if_false, Nat.add_zero]

theorem ctpop_pair (lo hi : Nat) :
    ctpop 64 (pair64 lo hi) = ctpop 32 lo + ctpop 32 hi := by
  have key : ∀ d, d ≤ 32 → ctpop (32 + d) (pair64 lo hi) = ctpop 32 lo + ctpop d hi := by
    intro d
    induction d with
    | zero =>
      intro _
      rw [Nat.add_zero, show ctpop 0 hi = 0 from rfl, Nat.add_zero]
      exact ctpop_congr 32 _ _ (fun i hi' => by
        rw [testBit_pair64]
        simp (disch := omega) only [decide_eq_true, decide_eq_false, Bool.true_and,
          Bool.false_and, Bool.or_false])
    | succ d ih =>
      intro hd
      rw [← Nat.add_assoc, ctpop_succ (32 + d), ctpop_succ d hi, ih (by omega), testBit_pair64]
      simp (disch := omega) only [decide_eq_true, decide_eq_false, Bool.true_and,
        Bool.false_and, Bool.false_or, Nat.add_sub_cancel_left]
      omega
  exact key 32 (le_refl _)
theorem testBit_pred (x k : Nat) (hb : x.testBit k = true)
    (hlow : ∀ i, i < k → x.testBit i = false) (i : Nat) :
    (x - 1).testBit i = if i < k then true else if i = k then false else x.testBit i := by
  induction k generalizing x i with
  | zero =>
    have hodd : x % 2 = 1 := by simpa [Nat.testBit_zero] using hb
    cases i with
    | zero =>
      simp only [Nat.lt_irrefl, if_false, if_true, Nat.testBit_zero]
      have : (x - 1) % 2 = 0 := by omega
      simp [this]
    | succ i =>
      simp only [Nat.not_lt_zero, if_false, Nat.succ_ne_zero, Nat.testBit_succ]
      congr 1
      omega
  | succ k ih =>
    have heven : x % 2 = 0 := by
      have := hlow 0 (by omega)
      simpa [Nat.testBit_zero] using this
    have hpos : 0 < x := by
      rcases Nat.eq_zero_or_pos x with h | h
      · subst h; simp at hb
      · exact h
    cases i with
    | zero =>
      simp only [Nat.zero_lt_succ, if_true, Nat.testBit_zero]
      have : (x - 1) % 2 = 1 := by omega
      simp [this]
    | succ i =>
      rw [Nat.testBit_succ, Nat.testBit_succ, show (x - 1) / 2 = x / 2 - 1 by omega,
        ih (x / 2) (by rw [← Nat.testBit_succ]; exact hb)
          (fun j hj => by rw [← Nat.testBit_succ]; exact hlow (j + 1) (by omega))]
      simp only [Nat.succ_lt_succ_iff, Nat.succ_inj']

theorem ctz_mask (w x : Nat) (hx : x < 2 ^ w) (h0 : x ≠ 0) :
    ((x + 2 ^ w - 1) % 2 ^ w) &&& bnot w x = 2 ^ ctz w x - 1 := by
  have hk := ctz_lt_of_ne_zero w x (by rw [Nat.mod_eq_of_lt hx]; exact h0)
  obtain ⟨h1, h2, h3⟩ := ctz_spec w x
  have e : (x + 2 ^ w - 1) % 2 ^ w = x - 1 := by
    rw [show x + 2 ^ w - 1 = x - 1 + 2 ^ w by omega, Nat.add_mod_right,
      Nat.mod_eq_of_lt (by omega)]
  rw [e]
  apply Nat.eq_of_testBit_eq; intro i
  rw [Nat.testBit_and, testBit_bnot, testBit_pred x _ (h2 hk) h3, Nat.testBit_two_pow_sub_one]
  rcases Nat.lt_trichotomy i (ctz w x) with h | h | h
  · have hw : i < w := by omega
    simp only [h, if_true, h3 i h, hw, decide_True, Bool.not_false, Bool.and_self]
  · subst h
    simp only [lt_self_iff_false, if_false, if_true, Bool.false_and, decide_False]
  · have n1 : ¬ i < ctz w x := by omega
    have n2 : ¬ i = ctz w x := by omega
    simp only [n1, n2, if_false, decide_False]
    cases x.testBit i <;> simp

theorem ctz_lowbit (w x : Nat) (hx : x < 2 ^ w) (h0 : x ≠ 0) :
    ((2 ^ w - x) % 2 ^ w) &&& x = 2 ^ ctz w x := by
  have hk := ctz_lt_of_ne_zero w x (by rw [Nat.mod_eq_of_lt hx]; exact h0)
  obtain ⟨h1, h2, h3⟩ := ctz_spec w x
  have hpos : 0 < x := Nat.pos_of_ne_zero h0
  rw [Nat.mod_eq_of_lt (by omega)]
  apply Nat.eq_of_testBit_eq; intro i
  rw [Nat.testBit_and, show 2 ^ w - x = 2 ^ w - (x - 1 + 1) by omega,
    Nat.testBit_two_pow_sub_succ (by omega), testBit_pred x _ (h2 hk) h3, Nat.testBit_two_pow]
  rcases Nat.lt_trichotomy i (ctz w x) with h | h | h
  · have n : ¬ ctz w x = i := by omega
    simp only [h, if_true, h3 i h, Bool.not_true, Bool.and_false, Bool.false_and, n,
      decide_False]
  · subst h
    simp only [lt_self_iff_false, if_false, if_true, Bool.not_false, h2 hk, hk,
      decide_True, Bool.and_self]
  · have n1 : ¬ i < ctz w x := by omega
    have n2 : ¬ i = ctz w x := by omega
    have n3 : ¬ ctz w x = i := by omega
    simp only [n1, n2, n3, if_false, decide_False]
    cases x.testBit i <;> simp

theorem clz_two_pow (w k : Nat) (hk : k < w) : clz w (2 ^ k) = w - 1 - k := by
  unfold clz
  rw [Nat.mod_eq_of_lt (Nat.pow_lt_pow_right (by norm_num) hk), Nat.size_pow]
  omega
theorem ctpop_lt64 (w x : Nat) (hw : w ≤ 64) : ctpop w x < 2 ^ 64 :=
  lt_of_le_of_lt (ctpop_le w x) (lt_of_le_of_lt hw (by norm_num))

theorem tcg_gen_ctpop_i64_sem_native (T : TCGTarget) {r a n : Nat}
    (h : T.TCG_TARGET_HAS_ctpop_i64 = true) (ha : a + T.w64 ≤ n) :
    Sem (tcg_gen_ctpop_i64 T r a) n (fun m => m.set64 T r (ctpop 64 (m.get64 T a))) := by
  have hT : T.reg64 = true := by
    simp only [TCGTarget.TCG_TARGET_HAS_ctpop_i64, Bool.and_eq_true] at h
    exact h.1
  have hw := w64_of_reg64 hT
  unfold tcg_gen_ctpop_i64
  rw [dif_pos h]
  exact Sem.op1_64 hT .ctpop_i64 (fun x => ctpop 64 x) (fun _ => rfl)
    (fun x _ => ctpop_lt64 64 x (le_refl _)) (by omega)

theorem tcg_gen_ctpop_i32_sem (T : TCGTarget) {r a n : Nat} (ha : a < n) :
    Sem (tcg_gen_ctpop_i32 T r a) n (fun m => m.set r (ctpop 32 (m.regs a))) := by
  unfold tcg_gen_ctpop_i32
  by_cases h32 : T.TCG_TARGET_HAS_ctpop_i32 = true
  · simp only [h32, if_true]
    exact (Sem.op1 .ctpop_i32 (fun x => ctpop 32 (x % 2 ^ 32)) (fun _ => rfl) ha).conseq
      (fun N _ m => Agree.set (Agree.refl _ _) _ (ctpop_mod 32 _))
  simp only [h32, if_false]
  by_cases h64 : T.TCG_TARGET_HAS_ctpop_i64 = true
  · rw [dif_pos h64]
    have hT : T.reg64 = true := by
      simp only [TCGTarget.TCG_TARGET_HAS_ctpop_i64, Bool.and_eq_true] at h64
      exact h64.1
    have hw := w64_of_reg64 hT
    refine Sem.new64 T (fun t ht => Sem.bind
      (tcg_gen_extu_i32_i64_sem T (r := t) (a := a) (by omega))
      (Sem.bind (tcg_gen_ctpop_i64_sem_native T (r := t) (a := t) h64 (by omega))
      (Sem.bind (tcg_gen_extrl_i64_i32_sem T (r := r) (a := t) (by omega))
        (Sem.free64 t _)))) (fun t ht m => ?_) (Local.set1 r (fun x => ctpop 32 x) ha)
    simp only [Function.comp, id]
    simp (disch := omega) only [Machine.get64_set64_self, Machine.get64_set64_ne]
    refine Agree.of_set (by simp [Machine.set64_of_reg64 hT, Machine.set]) ?_
      (fun i hi hne => ?_)
    · simp only [Machine.set_regs_self]
      have hx : m.regs a % 2 ^ 32 < 2 ^ 32 := Nat.mod_lt _ (by norm_num)
      rw [Nat.mod_eq_of_lt (lt_trans hx (by norm_num)),
        Nat.mod_eq_of_lt (ctpop_lt64 64 _ (le_refl _)),
        ctpop_add_of_lt 32 32 _ hx, ctpop_mod,
        Nat.mod_eq_of_lt (lt_of_le_of_lt (ctpop_le 32 _) (by norm_num))]
    · rw [Machine.set_regs_ne _ _ hne]
      simp (disch := omega) only [Machine.set64_regs_ne]
  · rw [dif_neg h64]
    unfold gen_helper_ctpop_i32 tcg_gen_callN
    exact (Sem.emit1 .call [Helper.ctpop_i32.toCtorIdx, r, a] (r := r) (a := a)
      (fun x => ctpop 32 (x % 2 ^ 32)) (fun _ => rfl)
      ha).conseq (fun N _ m => Agree.set (Agree.refl _ _) _ (ctpop_mod 32 _))

theorem tcg_gen_ctpop_i64_sem (T : TCGTarget) {r a n : Nat} (ha : a + T.w64 ≤ n)
    (hr : r + T.w64 ≤ n) (hra : r = a ∨ r + T.w64 ≤ a ∨ a + T.w64 ≤ r) :
    Sem (tcg_gen_ctpop_i64 T r a) n (fun m => m.set64 T r (ctpop 64 (m.get64 T a))) := by
  have hw1 := w64_pos T
  by_cases h64 : T.TCG_TARGET_HAS_ctpop_i64 = true
  · exact tcg_gen_ctpop_i64_sem_native T h64 ha
  unfold tcg_gen_ctpop_i64
  rw [dif_neg h64]
  split_ifs with c
  · obtain ⟨c1, c2⟩ := c
    have hT : T.reg64 = false := by simpa using c1
    have hw := w64_of_reg32 hT
    simp only [TCGV_LOW, TCGV_HIGH]
    refine (Sem.bind (tcg_gen_ctpop_i32_sem T (r := r + 1) (a := a + 1) (by omega))
      (Sem.bind (tcg_gen_ctpop_i32_sem T (r := r) (a := a) (by omega))
      (Sem.bind (tcg_gen_add_i32_sem (r := r) (a := r) (b := r + 1) (by omega) (by omega))
        (tcg_gen_movi_i32_sem (r + 1) 0 _)))).conseq (fun N _ m => ?_)
    have d1 : r ≠ r + 1 := by omega
    have d2 : r + 1 ≠ r := by omega
    have d3 : a ≠ r + 1 := by omega
    refine Agree.of_pair hT (by simp [Machine.set, Function.comp]) ?_ ?_
      (fun i hi k1 k2 => ?_)
    · simp only [Function.comp, Machine.set_regs, d1, d2, d3, if_false, if_true,
        Machine.get64_of_reg32 hT, ctpop_pair]
      have h1 := ctpop_le 32 (m.regs a)
      have h2 := ctpop_le 32 (m.regs (a + 1))
      omega
    · simp only [Function.comp, Machine.set_regs, if_true, Machine.get64_of_reg32 hT,
        ctpop_pair, Nat.shiftRight_eq_div_pow]
      have h1 := ctpop_le 32 (m.regs a)
      have h2 := ctpop_le 32 (m.regs (a + 1))
      omega
    · simp only [Function.comp, Machine.set_regs, k1, k2, if_false]
  · unfold gen_helper_ctpop_i64
    cases hT : T.reg64
    · have hw := w64_of_reg32 hT
      simp only [Bool.false_eq_true, if_false, TCGV_LOW, TCGV_HIGH]
      unfold tcg_gen_callN
      have e : exec_op ⟨.call, [Helper.ctpop_i64.toCtorIdx, r, r + 1, a, a + 1]⟩ =
          fun m => m.set64 T r (ctpop 64 (m.get64 T a)) := by
        funext m
        rw [Machine.set64_of_reg32 hT, Machine.get64_of_reg32 hT]
        rfl
      rw [← e]
      exact Sem.emit _ _ _ (e ▸ Local.set64_1 T r (fun x => ctpop 64 x) ha)
    · have hw := w64_of_reg64 hT
      simp only [if_true]
      unfold tcg_gen_callN
      have e : exec_op ⟨.call, [Helper.ctpop_i64.toCtorIdx, r, a]⟩ =
          fun m => m.set64 T r (ctpop 64 (m.get64 T a)) := by
        funext m
        rw [Machine.set64_of_reg64 hT, Machine.get64_of_reg64 hT,
          Nat.mod_eq_of_lt (ctpop_lt64 64 _ (le_refl _))]
        rfl
      rw [← e]
      exact Sem.emit _ _ _ (e ▸ Local.set64_1 T r (fun x => ctpop 64 x) ha)
theorem eq_eval_zero (w x : Nat) (hx : x < 2 ^ w) :
    (TCGCond.eval w .EQ x 0 = true) ↔ x = 0 := by
  simp only [TCGCond.eval, Nat.zero_mod, Nat.mod_eq_of_lt hx, beq_iff_eq]

theorem ctz_tail_i64_sem (T : TCGTarget) {r a b t n : Nat} (ha : a + T.w64 ≤ n)
    (hb : b + T.w64 ≤ n) (hr : r + T.w64 ≤ n) (ht : t + T.w64 ≤ n)
    (hrb : r = b ∨ r + T.w64 ≤ b ∨ b + T.w64 ≤ r)
    (hrt : r = t ∨ r + T.w64 ≤ t ∨ t + T.w64 ≤ r) :
    Sem (do
        let z ← tcg_const_i64 T 0
        tcg_gen_movcond_i64 T .EQ r a z b t
        tcg_temp_free_i64 t
        tcg_temp_free_i64 z) n
      (fun m => m.set64 T r (if m.get64 T a = 0 then m.get64 T b else m.get64 T t)) := by
  have hw1 := w64_pos T
  have hL : Local n (fun m => m.set64 T r (if m.get64 T a = 0 then m.get64 T b
      else m.get64 T t)) := by
    intro N hN m m' h
    have e1 := h.get64 T (show a + T.w64 ≤ N by omega)
    have e2 := h.get64 T (show b + T.w64 ≤ N by omega)
    have e3 := h.get64 T (show t + T.w64 ≤ N by omega)
    simp only [e1, e2, e3]
    exact Agree.set64 T h r rfl
  refine Sem.const64 T 0 (fun z hz => Sem.bind
    (@tcg_gen_movcond_i64_sem T r a z b t _ .EQ
      (by omega) (by omega) (by omega) (by omega) (by omega) hrb hrt)
    (Sem.bind (Sem.free64 t _) (Sem.free64 z _))) (fun z hz m => ?_) hL
  simp only [Function.comp, id]
  simp (disch := omega) only [Machine.get64_set64_self, Machine.get64_set64_ne]
  refine Agree.of_set64 T (by simp) ?_ (fun i hi hne => ?_)
  · have hx := Machine.get64_lt T m a
    have e := eq_eval_zero 64 _ hx
    rw [show (0 : Nat) % 2 ^ 64 = 0 from rfl]
    by_cases h0 : m.get64 T a = 0
    · rw [if_pos h0, if_pos (e.mpr h0)]
    · rw [if_neg h0, if_neg (fun h => h0 (e.mp h))]
  · simp (disch := omega) only [Machine.set64_regs_ne]

theorem ctz_tail_i32_sem (T : TCGTarget) {r a b t n : Nat} (ha : a < n)
    (hb : b < n) (hr : r < n) (ht : t < n) :
    Sem (do
        let z ← tcg_const_i32 0
        tcg_gen_movcond_i32 T .EQ r a z b t
        tcg_temp_free_i32 t
        tcg_temp_free_i32 z) n
      (fun m => m.set r (if m.regs a % 2 ^ 32 = 0 then m.regs b % 2 ^ 32
        else m.regs t % 2 ^ 32)) := by
  have hL : Local n (fun m => m.set r (if m.regs a % 2 ^ 32 = 0 then m.regs b % 2 ^ 32
      else m.regs t % 2 ^ 32)) :=
    Local.set_of r (fun m m' h => by rw [h.2 a ha, h.2 b hb, h.2 t ht])
  refine Sem.const 0 hL (fun z hz => Sem.bind
    (@tcg_gen_movcond_i32_sem T r a z b t _ .EQ
      (by omega) (by omega) (by omega) (by omega) (by omega))
    (Sem.bind (Sem.free t _) (Sem.free z _))) (fun z hz m => ?_)
  have d1 : a ≠ z := by omega
  have d2 : b ≠ z := by omega
  have d3 : t ≠ z := by omega
  refine ⟨by simp [Machine.set, Function.comp], fun i hi => ?_⟩
  have d4 : i ≠ z := by omega
  simp only [Function.comp, id, Machine.set_regs, d1, d2, d3, d4, if_false, if_true]
  have e : (TCGCond.eval 32 .EQ (m.regs a) (0 % 2 ^ 32) = true) ↔ m.regs a % 2 ^ 32 = 0 := by
    simp only [TCGCond.eval, Nat.zero_mod, beq_iff_eq]
  by_cases h0 : m.regs a % 2 ^ 32 = 0
  · rw [if_pos h0, if_pos (e.mpr h0)]
  · rw [if_neg h0, if_neg (fun h => h0 (e.mp h))]

theorem Extends.of_pure {α : Type} (a : α) : Extends (pure a : Gen α) :=
  fun s => List.prefix_refl _

theorem Extends.of_bind {α β : Type} {x : Gen α} {f : α → Gen β} (hx : Extends x)
    (hf : ∀ a, Extends (f a)) : Extends (x >>= f) := by
  intro s
  rw [Gen.bind_apply]
  have h1 := hx s
  rcases h : x s with ⟨_ | a, s'⟩
  · rw [h] at h1; exact h1
  · rw [h] at h1; exact h1.trans (hf a s')

theorem Extends.of_ite {α : Type} (c : Prop) [Decidable c] {g h : Gen α} (hg : Extends g)
    (hh : Extends h) : Extends (if c then g else h) := by
  split <;> assumption

theorem Extends.of_dite {α : Type} (c : Prop) [Decidable c] {g : c → Gen α} {h : ¬ c → Gen α}
    (hg : ∀ p, Extends (g p)) (hh : ∀ p, Extends (h p)) :
    Extends (if p : c then g p else h p) := by
  split
  · exact hg _
  · exact hh _

theorem Extends.of_abort {α : Type} : Extends (tcg_abort : Gen α) :=
  fun s => List.prefix_refl _

theorem Extends.of_assert (c : Bool) : Extends (tcg_debug_assert c) :=
  fun s => List.prefix_refl _

theorem Extends.of_emit (opc : TCGOpcode) (args : List TCGArg) : Extends (tcg_emit_op opc args) :=
  fun s => List.prefix_append _ _

theorem Extends.of_new_i32 : Extends tcg_temp_new_i32 :=
  fun s => List.prefix_refl _

theorem Extends.of_cflags : Extends tb_cflags :=
  fun s => List.prefix_refl _


theorem plugin_gen_disable_mem_helpers_extends (C : TBConfig) (s : TBContext) :
    s.tb_ops <+: (plugin_gen_disable_mem_helpers C s).tb_ops := by
  unfold plugin_gen_disable_mem_helpers
  split
  · exact List.prefix_append _ _
  · exact List.prefix_refl _

theorem tcg_gen_exit_tb_extends (C : TBConfig) (tb idx : Nat) (s : TBContext) :
    s.tb_ops <+: (tcg_gen_exit_tb C tb idx s).2.tb_ops := by
  have hemit : ∀ val : Nat, s.tb_ops <+:
      (plugin_gen_disable_mem_helpers C s).tb_ops ++ [TBOp.exit_tb val] := fun val =>
    (plugin_gen_disable_mem_helpers_extends C s).trans (List.prefix_append _ _)
  unfold tcg_gen_exit_tb
  dsimp only []
  repeat' split
  all_goals first | exact hemit _ | exact List.prefix_refl _

theorem tcg_gen_goto_tb_extends (C : TBConfig) (idx : Nat) (s : TBContext) :
    s.tb_ops <+: (tcg_gen_goto_tb C idx s).2.tb_ops := by
  have hmask : ∀ k : Nat, s.tb_ops <+:
      (plugin_gen_disable_mem_helpers C { s with goto_tb_issue_mask := k }).tb_ops :=
    fun k => plugin_gen_disable_mem_helpers_extends C { s with goto_tb_issue_mask := k }
  unfold tcg_gen_goto_tb
  dsimp only []
  repeat' split
  all_goals first
    | exact List.prefix_refl _
    | exact hmask _
    | exact (hmask _).trans (List.prefix_append _ _)
    | exact plugin_gen_disable_mem_helpers_extends C s
    | exact (plugin_gen_disable_mem_helpers_extends C s).trans (List.prefix_append _ _)

theorem tcg_gen_lookup_and_goto_ptr_extends (T : TCGTarget) (C : TBConfig) (s : TBContext)
    (nb_temps : Nat) :
    s.tb_ops <+: (tcg_gen_lookup_and_goto_ptr T C s nb_temps).2.1.tb_ops := by
  unfold tcg_gen_lookup_and_goto_ptr
  split
  · exact (plugin_gen_disable_mem_helpers_extends C s).trans (List.prefix_append _ _)
  · exact tcg_gen_exit_tb_extends C 0 0 s
theorem tcg_gen_op1_extends (opc : TCGOpcode) (a1 : TCGArg) :
    Extends (tcg_gen_op1 opc a1) := by
  unfold tcg_gen_op1
  repeat' (first | with_reducible (first
    | exact Extends.of_pure _ | exact Extends.of_abort | exact Extends.of_assert _
    | exact Extends.of_emit _ _ | exact Extends.of_new_i32 | exact Extends.of_cflags
    | apply Extends.of_bind | apply Extends.of_ite | apply Extends.of_dite | intro _
    | dsimp only []) | split)

theorem tcg_gen_op2_extends (opc : TCGOpcode) (a1 a2 : TCGArg) :
    Extends (tcg_gen_op2 opc a1 a2) := by
  unfold tcg_gen_op2
  repeat' (first | with_reducible (first
    | exact Extends.of_pure _ | exact Extends.of_abort | exact Extends.of_assert _
    | exact Extends.of_emit _ _ | exact Extends.of_new_i32 | exact Extends.of_cflags
    | apply Extends.of_bind | apply Extends.of_ite | apply Extends.of_dite | intro _
    | dsimp only []) | split)

theorem tcg_gen_op3_extends (opc : TCGOpcode) (a1 a2 a3 : TCGArg) :
    Extends (tcg_gen_op3 opc a1 a2 a3) := by
  unfold tcg_gen_op3
  repeat' (first | with_reducible (first
    | exact Extends.of_pure _ | exact Extends.of_abort | exact Extends.of_assert _
    | exact Extends.of_emit _ _ | exact Extends.of_new_i32 | exact Extends.of_cflags
    | apply Extends.of_bind | apply Extends.of_ite | apply Extends.of_dite | intro _
    | dsimp only []) | split)

theorem tcg_gen_op4_extends (opc : TCGOpcode) (a1 a2 a3 a4 : TCGArg) :
    Extends (tcg_gen_op4 opc a1 a2 a3 a4) := by
  unfold tcg_gen_op4
  repeat' (first | with_reducible (first
    | exact Extends.of_pure _ | exact Extends.of_abort | exact Extends.of_assert _
    | exact Extends.of_emit _ _ | exact Extends.of_new_i32 | exact Extends.of_cflags
    | apply Extends.of_bind | apply Extends.of_ite | apply Extends.of_dite | intro _
    | dsimp only []) | split)

theorem tcg_gen_op5_extends (opc : TCGOpcode) (a1 a2 a3 a4 a5 : TCGArg) :
    Extends (tcg_gen_op5 opc a1 a2 a3 a4 a5) := by
  unfold tcg_gen_op5
  repeat' (first | with_reducible (first
    | exact Extends.of_pure _ | exact Extends.of_abort | exact Extends.of_assert _
    | exact Extends.of_emit _ _ | exact Extends.of_new_i32 | exact Extends.of_cflags
    | apply Extends.of_bind | apply Extends.of_ite | apply Extends.of_dite | intro _
    | dsimp only []) | split)

theorem tcg_gen_op6_extends (opc : TCGOpcode) (a1 a2 a3 a4 a5 a6 : TCGArg) :
    Extends (tcg_gen_op6 opc a1 a2 a3 a4 a5 a6) := by
  unfold tcg_gen_op6
  repeat' (first | with_reducible (first
    | exact Extends.of_pure _ | exact Extends.of_abort | exact Extends.of_assert _
    | exact Extends.of_emit _ _ | exact Extends.of_new_i32 | exact Extends.of_cflags
    | apply Extends.of_bind | apply Extends.of_ite | apply Extends.of_dite | intro _
    | dsimp only []) | split)

theorem tcg_temp_free_i32_extends (t : TCGv_i32) :
    Extends (tcg_temp_free_i32 t) := by
  unfold tcg_temp_free_i32
  repeat' (first | with_reducible (first
    | exact Extends.of_pure _ | exact Extends.of_abort | exact Extends.of_assert _
    | exact Extends.of_emit _ _ | exact Extends.of_new_i32 | exact Extends.of_cflags
    | apply Extends.of_bind | apply Extends.of_ite | apply Extends.of_dite | intro _
    | dsimp only []) | split)

theorem tcg_gen_mov_i32_extends (ret arg : TCGv_i32) :
    Extends (tcg_gen_mov_i32 ret arg) := by
  unfold tcg_gen_mov_i32
  repeat' (first | with_reducible (first
    | exact Extends.of_pure _ | exact Extends.of_abort | exact Extends.of_assert _
    | exact Extends.of_emit _ _ | exact Extends.of_new_i32 | exact Extends.of_cflags
    | apply tcg_gen_op2_extends | apply Extends.of_bind | apply Extends.of_ite
    | apply Extends.of_dite | intro _ | dsimp only []) | split)

theorem tcg_gen_movi_i32_extends (ret : TCGv_i32) (arg : Nat) :
    Extends (tcg_gen_movi_i32 ret arg) := by
  unfold tcg_gen_movi_i32
  repeat' (first | with_reducible (first
    | exact Extends.of_pure _ | exact Extends.of_abort | exact Extends.of_assert _
    | exact Extends.of_emit _ _ | exact Extends.of_new_i32 | exact Extends.of_cflags
    | apply tcg_gen_op2_extends | apply Extends.of_bind | apply Extends.of_ite
    | apply Extends.of_dite | intro _ | dsimp only []) | split)

theorem tcg_const_i32_extends (val : Nat) :
    Extends (tcg_const_i32 val) := by
  unfold tcg_const_i32
  repeat' (first | with_reducible (first
    | exact Extends.of_pure _ | exact Extends.of_abort | exact Extends.of_assert _
    | exact Extends.of_emit _ _ | exact Extends.of_new_i32 | exact Extends.of_cflags
    | apply tcg_gen_movi_i32_extends | apply Extends.of_bind | apply Extends.of_ite
    | apply Extends.of_dite | intro _ | dsimp only []) | split)

theorem tcg_gen_add_i32_extends (ret arg1 arg2 : TCGv_i32) :
    Extends (tcg_gen_add_i32 ret arg1 arg2) := by
  unfold tcg_gen_add_i32
  repeat' (first | with_reducible (first
    | exact Extends.of_pure _ | exact Extends.of_abort | exact Extends.of_assert _
    | exact Extends.of_emit _ _ | exact Extends.of_new_i32 | exact Extends.of_cflags
    | apply tcg_gen_op3_extends | apply Extends.of_bind | apply Extends.of_ite
    | apply Extends.of_dite | intro _ | dsimp only []) | split)

theorem tcg_gen_sub_i32_extends (ret arg1 arg2 : TCGv_i32) :
    Extends (tcg_gen_sub_i32 ret arg1 arg2) := by
  unfold tcg_gen_sub_i32
  repeat' (first | with_reducible (first
    | exact Extends.of_pure _ | exact Extends.of_abort | exact Extends.of_assert _
    | exact Extends.of_emit _ _ | exact Extends.of_new_i32 | exact Extends.of_cflags
    | apply tcg_gen_op3_extends | apply Extends.of_bind | apply Extends.of_ite
    | apply Extends.of_dite | intro _ | dsimp only []) | split)

theorem tcg_gen_and_i32_extends (ret arg1 arg2 : TCGv_i32) :
    Extends (tcg_gen_and_i32 ret arg1 arg2) := by
  unfold tcg_gen_and_i32
  repeat' (first | with_reducible (first
    | exact Extends.of_pure _ | exact Extends.of_abort | exact Extends.of_assert _
    | exact Extends.of_emit _ _ | exact Extends.of_new_i32 | exact Extends.of_cflags
    | apply tcg_gen_op3_extends | apply Extends.of_bind | apply Extends.of_ite
    | apply Extends.of_dite | intro _ | dsimp only []) | split)

theorem tcg_gen_or_i32_extends (ret arg1 arg2 : TCGv_i32) :
    Extends (tcg_gen_or_i32 ret arg1 arg2) := by
  unfold tcg_gen_or_i32
  repeat' (first | with_reducible (first
    | exact Extends.of_pure _ | exact Extends.of_abort | exact Extends.of_assert _
    | exact Extends.of_emit _ _ | exact Extends.of_new_i32 | exact Extends.of_cflags
    | apply tcg_gen_op3_extends | apply Extends.of_bind | apply Extends.of_ite
    | apply Extends.of_dite | intro _ | dsimp only []) | split)

theorem tcg_gen_xor_i32_extends (ret arg1 arg2 : TCGv_i32) :
    Extends (tcg_gen_xor_i32 ret arg1 arg2) := by
  unfold tcg_gen_xor_i32
  repeat' (first | with_reducible (first
    | exact Extends.of_pure _ | exact Extends.of_abort | exact Extends.of_assert _
    | exact Extends.of_emit _ _ | exact Extends.of_new_i32 | exact Extends.of_cflags
    | apply tcg_gen_op3_extends | apply Extends.of_bind | apply Extends.of_ite
    | apply Extends.of_dite | intro _ | dsimp only []) | split)

theorem tcg_gen_shl_i32_extends (ret arg1 arg2 : TCGv_i32) :
    Extends (tcg_gen_shl_i32 ret arg1 arg2) := by
  unfold tcg_gen_shl_i32
  repeat' (first | with_reducible (first
    | exact Extends.of_pure _ | exact Extends.of_abort | exact Extends.of_assert _
    | exact Extends.of_emit _ _ | exact Extends.of_new_i32 | exact Extends.of_cflags
    | apply tcg_gen_op3_extends | apply Extends.of_bind | apply Extends.of_ite
    | apply Extends.of_dite | intro _ | dsimp only []) | split)

theorem tcg_gen_shr_i32_extends (ret arg1 arg2 : TCGv_i32) :
    Extends (tcg_gen_shr_i32 ret arg1 arg2) := by
  unfold tcg_gen_shr_i32
  repeat' (first | with_reducible (first
    | exact Extends.of_pure _ | exact Extends.of_abort | exact Extends.of_assert _
    | exact Extends.of_emit _ _ | exact Extends.of_new_i32 | exact Extends.of_cflags
    | apply tcg_gen_op3_extends | apply Extends.of_bind | apply Extends.of_ite
    | apply Extends.of_dite | intro _ | dsimp only []) | split)

theorem tcg_gen_sar_i32_extends (ret arg1 arg2 : TCGv_i32) :
    Extends (tcg_gen_sar_i32 ret arg1 arg2) := by
  unfold tcg_gen_sar_i32
  repeat' (first | with_reducible (first
    | exact Extends.of_pure _ | exact Extends.of_abort | exact Extends.of_assert _
    | exact Extends.of_emit _ _ | exact Extends.of_new_i32 | exact Extends.of_cflags
    | apply tcg_gen_op3_extends | apply Extends.of_bind | apply Extends.of_ite
    | apply Extends.of_dite | intro _ | dsimp only []) | split)

theorem tcg_gen_addi_i32_extends (ret arg1 : TCGv_i32) (arg2 : Nat) :
    Extends (tcg_gen_addi_i32 ret arg1 arg2) := by
  unfold tcg_gen_addi_i32
  repeat' (first | with_reducible (first
    | exact Extends.of_pure _ | exact Extends.of_abort | exact Extends.of_assert _
    | exact Extends.of_emit _ _ | exact Extends.of_new_i32 | exact Extends.of_cflags
    | apply tcg_temp_free_i32_extends | apply tcg_gen_mov_i32_extends
    | apply tcg_const_i32_extends | apply tcg_gen_add_i32_extends | apply Extends.of_bind
    | apply Extends.of_ite | apply Extends.of_dite | intro _ | dsimp only []) | split)

theorem tcg_gen_subfi_i32_extends (T : TCGTarget) (ret : TCGv_i32) (arg1 : Nat) (arg2 : TCGv_i32) :
    Extends (tcg_gen_subfi_i32 T ret arg1 arg2) := by
  unfold tcg_gen_subfi_i32
  repeat' (first | with_reducible (first
    | exact Extends.of_pure _ | exact Extends.of_abort | exact Extends.of_assert _
    | exact Extends.of_emit _ _ | exact Extends.of_new_i32 | exact Extends.of_cflags
    | apply tcg_gen_op2_extends | apply tcg_temp_free_i32_extends | apply tcg_const_i32_extends
    | apply tcg_gen_sub_i32_extends | apply Extends.of_bind | apply Extends.of_ite
    | apply Extends.of_dite | intro _ | dsimp only []) | split)

theorem tcg_gen_subi_i32_extends (ret arg1 : TCGv_i32) (arg2 : Nat) :
    Extends (tcg_gen_subi_i32 ret arg1 arg2) := by
  unfold tcg_gen_subi_i32
  repeat' (first | with_reducible (first
    | exact Extends.of_pure _ | exact Extends.of_abort | exact Extends.of_assert _
    | exact Extends.of_emit _ _ | exact Extends.of_new_i32 | exact Extends.of_cflags
    | apply tcg_temp_free_i32_extends | apply tcg_gen_mov_i32_extends
    | apply tcg_const_i32_extends | apply tcg_gen_sub_i32_extends | apply Extends.of_bind
    | apply Extends.of_ite | apply Extends.of_dite | intro _ | dsimp only []) | split)

theorem tcg_gen_andi_i32_extends (T : TCGTarget) (ret arg1 : TCGv_i32) (arg2 : Nat) :
    Extends (tcg_gen_andi_i32 T ret arg1 arg2) := by
  unfold tcg_gen_andi_i32
  repeat' (first | with_reducible (first
    | exact Extends.of_pure _ | exact Extends.of_abort | exact Extends.of_assert _
    | exact Extends.of_emit _ _ | exact Extends.of_new_i32 | exact Extends.of_cflags
    | apply tcg_gen_op2_extends | apply tcg_temp_free_i32_extends | apply tcg_gen_mov_i32_extends
    | apply tcg_gen_movi_i32_extends | apply tcg_const_i32_extends | apply tcg_gen_and_i32_extends
    | apply Extends.of_bind | apply Extends.of_ite | apply Extends.of_dite | intro _
    | dsimp only []) | split)

theorem tcg_gen_xori_i32_extends (T : TCGTarget) (ret arg1 : TCGv_i32) (arg2 : Nat) :
    Extends (tcg_gen_xori_i32 T ret arg1 arg2) := by
  unfold tcg_gen_xori_i32
  repeat' (first | with_reducible (first
    | exact Extends.of_pure _ | exact Extends.of_abort | exact Extends.of_assert _
    | exact Extends.of_emit _ _ | exact Extends.of_new_i32 | exact Extends.of_cflags
    | apply tcg_gen_op2_extends | apply tcg_temp_free_i32_extends | apply tcg_gen_mov_i32_extends
    | apply tcg_const_i32_extends | apply tcg_gen_xor_i32_extends | apply Extends.of_bind
    | apply Extends.of_ite | apply Extends.of_dite | intro _ | dsimp only []) | split)

theorem tcg_gen_neg_i32_extends (T : TCGTarget) (ret arg : TCGv_i32) :
    Extends (tcg_gen_neg_i32 T ret arg) := by
  unfold tcg_gen_neg_i32
  repeat' (first | with_reducible (first
    | exact Extends.of_pure _ | exact Extends.of_abort | exact Extends.of_assert _
    | exact Extends.of_emit _ _ | exact Extends.of_new_i32 | exact Extends.of_cflags
    | apply tcg_gen_op2_extends | apply tcg_gen_subfi_i32_extends | apply Extends.of_bind
    | apply Extends.of_ite | apply Extends.of_dite | intro _ | dsimp only []) | split)

theorem tcg_gen_not_i32_extends (T : TCGTarget) (ret arg : TCGv_i32) :
    Extends (tcg_gen_not_i32 T ret arg) := by
  unfold tcg_gen_not_i32
  repeat' (first | with_reducible (first
    | exact Extends.of_pure _ | exact Extends.of_abort | exact Extends.of_assert _
    | exact Extends.of_emit _ _ | exact Extends.of_new_i32 | exact Extends.of_cflags
    | apply tcg_gen_op2_extends | apply tcg_gen_xori_i32_extends | apply Extends.of_bind
    | apply Extends.of_ite | apply Extends.of_dite | intro _ | dsimp only []) | split)

theorem tcg_gen_shli_i32_extends (ret arg1 : TCGv_i32) (arg2 : Nat) :
    Extends (tcg_gen_shli_i32 ret arg1 arg2) := by
  unfold tcg_gen_shli_i32
  repeat' (first | with_reducible (first
    | exact Extends.of_pure _ | exact Extends.of_abort | exact Extends.of_assert _
    | exact Extends.of_emit _ _ | exact Extends.of_new_i32 | exact Extends.of_cflags
    | apply tcg_temp_free_i32_extends | apply tcg_gen_mov_i32_extends
    | apply tcg_const_i32_extends | apply tcg_gen_shl_i32_extends | apply Extends.of_bind
    | apply Extends.of_ite | apply Extends.of_dite | intro _ | dsimp only []) | split)

theorem tcg_gen_shri_i32_extends (ret arg1 : TCGv_i32) (arg2 : Nat) :
    Extends (tcg_gen_shri_i32 ret arg1 arg2) := by
  unfold tcg_gen_shri_i32
  repeat' (first | with_reducible (first
    | exact Extends.of_pure _ | exact Extends.of_abort | exact Extends.of_assert _
    | exact Extends.of_emit _ _ | exact Extends.of_new_i32 | exact Extends.of_cflags
    | apply tcg_temp_free_i32_extends | apply tcg_gen_mov_i32_extends
    | apply tcg_const_i32_extends | apply tcg_gen_shr_i32_extends | apply Extends.of_bind
    | apply Extends.of_ite | apply Extends.of_dite | intro _ | dsimp only []) | split)

theorem tcg_gen_sari_i32_extends (ret arg1 : TCGv_i32) (arg2 : Nat) :
    Extends (tcg_gen_sari_i32 ret arg1 arg2) := by
  unfold tcg_gen_sari_i32
  repeat' (first | with_reducible (first
    | exact Extends.of_pure _ | exact Extends.of_abort | exact Extends.of_assert _
    | exact Extends.of_emit _ _ | exact Extends.of_new_i32 | exact Extends.of_cflags
    | apply tcg_temp_free_i32_extends | apply tcg_gen_mov_i32_extends
    | apply tcg_const_i32_extends | apply tcg_gen_sar_i32_extends | apply Extends.of_bind
    | apply Extends.of_ite | apply Extends.of_dite | intro _ | dsimp only []) | split)

theorem tcg_gen_ext8s_i32_extends (T : TCGTarget) (ret arg : TCGv_i32) :
    Extends (tcg_gen_ext8s_i32 T ret arg) := by
  unfold tcg_gen_ext8s_i32
  repeat' (first | with_reducible (first
    | exact Extends.of_pure _ | exact Extends.of_abort | exact Extends.of_assert _
    | exact Extends.of_emit _ _ | exact Extends.of_new_i32 | exact Extends.of_cflags
    | apply tcg_gen_op2_extends | apply tcg_gen_shli_i32_extends | apply tcg_gen_sari_i32_extends
    | apply Extends.of_bind | apply Extends.of_ite | apply Extends.of_dite | intro _
    | dsimp only []) | split)

theorem tcg_gen_ext16s_i32_extends (T : TCGTarget) (ret arg : TCGv_i32) :
    Extends (tcg_gen_ext16s_i32 T ret arg) := by
  unfold tcg_gen_ext16s_i32
  repeat' (first | with_reducible (first
    | exact Extends.of_pure _ | exact Extends.of_abort | exact Extends.of_assert _
    | exact Extends.of_emit _ _ | exact Extends.of_new_i32 | exact Extends.of_cflags
    | apply tcg_gen_op2_extends | apply tcg_gen_shli_i32_extends | apply tcg_gen_sari_i32_extends
    | apply Extends.of_bind | apply Extends.of_ite | apply Extends.of_dite | intro _
    | dsimp only []) | split)

theorem tcg_gen_ext8u_i32_extends (T : TCGTarget) (ret arg : TCGv_i32) :
    Extends (tcg_gen_ext8u_i32 T ret arg) := by
  unfold tcg_gen_ext8u_i32
  repeat' (first | with_reducible (first
    | exact Extends.of_pure _ | exact Extends.of_abort | exact Extends.of_assert _
    | exact Extends.of_emit _ _ | exact Extends.of_new_i32 | exact Extends.of_cflags
    | apply tcg_gen_op2_extends | apply tcg_gen_andi_i32_extends | apply Extends.of_bind
    | apply Extends.of_ite | apply Extends.of_dite | intro _ | dsimp only []) | split)

theorem tcg_gen_ext16u_i32_extends (T : TCGTarget) (ret arg : TCGv_i32) :
    Extends (tcg_gen_ext16u_i32 T ret arg) := by
  unfold tcg_gen_ext16u_i32
  repeat' (first | with_reducible (first
    | exact Extends.of_pure _ | exact Extends.of_abort | exact Extends.of_assert _
    | exact Extends.of_emit _ _ | exact Extends.of_new_i32 | exact Extends.of_cflags
    | apply tcg_gen_op2_extends | apply tcg_gen_andi_i32_extends | apply Extends.of_bind
    | apply Extends.of_ite | apply Extends.of_dite | intro _ | dsimp only []) | split)

theorem tcg_gen_setcond_i32_extends (cond : TCGCond) (ret arg1 arg2 : TCGv_i32) :
    Extends (tcg_gen_setcond_i32 cond ret arg1 arg2) := by
  unfold tcg_gen_setcond_i32
  repeat' (first | with_reducible (first
    | exact Extends.of_pure _ | exact Extends.of_abort | exact Extends.of_assert _
    | exact Extends.of_emit _ _ | exact Extends.of_new_i32 | exact Extends.of_cflags
    | apply tcg_gen_op4_extends | apply tcg_gen_movi_i32_extends | apply Extends.of_bind
    | apply Extends.of_ite | apply Extends.of_dite | intro _ | dsimp only []) | split)

theorem tcg_gen_andc_i32_extends (T : TCGTarget) (ret arg1 arg2 : TCGv_i32) :
    Extends (tcg_gen_andc_i32 T ret arg1 arg2) := by
  unfold tcg_gen_andc_i32
  repeat' (first | with_reducible (first
    | exact Extends.of_pure _ | exact Extends.of_abort | exact Extends.of_assert _
    | exact Extends.of_emit _ _ | exact Extends.of_new_i32 | exact Extends.of_cflags
    | apply tcg_gen_op3_extends | apply tcg_temp_free_i32_extends | apply tcg_gen_and_i32_extends
    | apply tcg_gen_not_i32_extends | apply Extends.of_bind | apply Extends.of_ite
    | apply Extends.of_dite | intro _ | dsimp only []) | split)

theorem tcg_gen_rotl_i32_extends (T : TCGTarget) (ret arg1 arg2 : TCGv_i32) :
    Extends (tcg_gen_rotl_i32 T ret arg1 arg2) := by
  unfold tcg_gen_rotl_i32
  repeat' (first | with_reducible (first
    | exact Extends.of_pure _ | exact Extends.of_abort | exact Extends.of_assert _
    | exact Extends.of_emit _ _ | exact Extends.of_new_i32 | exact Extends.of_cflags
    | apply tcg_gen_op3_extends | apply tcg_temp_free_i32_extends | apply tcg_gen_or_i32_extends
    | apply tcg_gen_shl_i32_extends | apply tcg_gen_shr_i32_extends
    | apply tcg_gen_subfi_i32_extends | apply Extends.of_bind | apply Extends.of_ite
    | apply Extends.of_dite | intro _ | dsimp only []) | split)

theorem tcg_gen_rotli_i32_extends (T : TCGTarget) (ret arg1 : TCGv_i32) (arg2 : Nat) :
    Extends (tcg_gen_rotli_i32 T ret arg1 arg2) := by
  unfold tcg_gen_rotli_i32
  repeat' (first | with_reducible (first
    | exact Extends.of_pure _ | exact Extends.of_abort | exact Extends.of_assert _
    | exact Extends.of_emit _ _ | exact Extends.of_new_i32 | exact Extends.of_cflags
    | apply tcg_temp_free_i32_extends | apply tcg_gen_mov_i32_extends
    | apply tcg_const_i32_extends | apply tcg_gen_or_i32_extends | apply tcg_gen_shli_i32_extends
    | apply tcg_gen_shri_i32_extends | apply tcg_gen_rotl_i32_extends | apply Extends.of_bind
    | apply Extends.of_ite | apply Extends.of_dite | intro _ | dsimp only []) | split)

theorem tcg_gen_rotr_i32_extends (T : TCGTarget) (ret arg1 arg2 : TCGv_i32) :
    Extends (tcg_gen_rotr_i32 T ret arg1 arg2) := by
  unfold tcg_gen_rotr_i32
  repeat' (first | with_reducible (first
    | exact Extends.of_pure _ | exact Extends.of_abort | exact Extends.of_assert _
    | exact Extends.of_emit _ _ | exact Extends.of_new_i32 | exact Extends.of_cflags
    | apply tcg_gen_op3_extends | apply tcg_temp_free_i32_extends | apply tcg_gen_or_i32_extends
    | apply tcg_gen_shl_i32_extends | apply tcg_gen_shr_i32_extends
    | apply tcg_gen_subfi_i32_extends | apply Extends.of_bind | apply Extends.of_ite
    | apply Extends.of_dite | intro _ | dsimp only []) | split)

theorem tcg_gen_rotri_i32_extends (T : TCGTarget) (ret arg1 : TCGv_i32) (arg2 : Nat) :
    Extends (tcg_gen_rotri_i32 T ret arg1 arg2) := by
  unfold tcg_gen_rotri_i32
  repeat' (first | with_reducible (first
    | exact Extends.of_pure _ | exact Extends.of_abort | exact Extends.of_assert _
    | exact Extends.of_emit _ _ | exact Extends.of_new_i32 | exact Extends.of_cflags
    | apply tcg_gen_mov_i32_extends | apply tcg_gen_rotli_i32_extends | apply Extends.of_bind
    | apply Extends.of_ite | apply Extends.of_dite | intro _ | dsimp only []) | split)

theorem tcg_gen_extract2_i32_native_extends (T : TCGTarget) (ret al ah : Nat) (ofs : Nat)
    (h : T.TCG_TARGET_HAS_extract2_i32 = true) :
    Extends (tcg_gen_extract2_i32 T ret al ah ofs) := by
  unfold tcg_gen_extract2_i32
  simp only [h, if_true]
  repeat' (with_reducible (first
    | exact absurd trivial (by assumption) | exact Extends.of_assert _
    | apply tcg_gen_mov_i32_extends | apply tcg_gen_rotri_i32_extends | apply tcg_gen_op4_extends
    | apply Extends.of_bind | apply Extends.of_ite | apply Extends.of_dite | intro _))

theorem tcg_gen_deposit_i32_extends (T : TCGTarget) (ret arg1 arg2 : TCGv_i32) (ofs len : Nat) :
    Extends (tcg_gen_deposit_i32 T ret arg1 arg2 ofs len) := by
  unfold tcg_gen_deposit_i32
  repeat' (first | with_reducible (first
    | exact tcg_gen_extract2_i32_native_extends T _ _ _ _ (And.left (by assumption))
    | exact Extends.of_pure _ | exact Extends.of_abort | exact Extends.of_assert _
    | exact Extends.of_emit _ _ | exact Extends.of_new_i32 | exact Extends.of_cflags
    | apply tcg_gen_op5_extends | apply tcg_temp_free_i32_extends | apply tcg_gen_mov_i32_extends
    | apply tcg_gen_or_i32_extends | apply tcg_gen_andi_i32_extends
    | apply tcg_gen_shli_i32_extends | apply tcg_gen_rotli_i32_extends
    | apply tcg_gen_extract2_i32_extends | apply Extends.of_bind | apply Extends.of_ite
    | apply Extends.of_dite | intro _ | dsimp only []) | split)

theorem tcg_gen_extract2_i32_extends (T : TCGTarget) (ret al ah : TCGv_i32) (ofs : Nat) :
    Extends (tcg_gen_extract2_i32 T ret al ah ofs) := by
  unfold tcg_gen_extract2_i32
  repeat' (first | with_reducible (first
    | exact Extends.of_pure _ | exact Extends.of_abort | exact Extends.of_assert _
    | exact Extends.of_emit _ _ | exact Extends.of_new_i32 | exact Extends.of_cflags
    | apply tcg_gen_op4_extends | apply tcg_temp_free_i32_extends | apply tcg_gen_mov_i32_extends
    | apply tcg_gen_shri_i32_extends | apply tcg_gen_rotri_i32_extends
    | apply tcg_gen_deposit_i32_extends | apply Extends.of_bind | apply Extends.of_ite
    | apply Extends.of_dite | intro _ | dsimp only []) | split)

theorem tcg_gen_extract_i32_extends (T : TCGTarget) (ret arg : TCGv_i32) (ofs len : Nat) :
    Extends (tcg_gen_extract_i32 T ret arg ofs len) := by
  unfold tcg_gen_extract_i32
  repeat' (first | with_reducible (first
    | exact Extends.of_pure _ | exact Extends.of_abort | exact Extends.of_assert _
    | exact Extends.of_emit _ _ | exact Extends.of_new_i32 | exact Extends.of_cflags
    | apply tcg_gen_op4_extends | apply tcg_gen_andi_i32_extends | apply tcg_gen_shli_i32_extends
    | apply tcg_gen_shri_i32_extends | apply tcg_gen_ext8u_i32_extends
    | apply tcg_gen_ext16u_i32_extends | apply Extends.of_bind | apply Extends.of_ite
    | apply Extends.of_dite | intro _ | dsimp only []) | split)

theorem tcg_gen_sextract_i32_extends (T : TCGTarget) (ret arg : TCGv_i32) (ofs len : Nat) :
    Extends (tcg_gen_sextract_i32 T ret arg ofs len) := by
  unfold tcg_gen_sextract_i32
  repeat' (first | with_reducible (first
    | exact Extends.of_pure _ | exact Extends.of_abort | exact Extends.of_assert _
    | exact Extends.of_emit _ _ | exact Extends.of_new_i32 | exact Extends.of_cflags
    | apply tcg_gen_op4_extends | apply tcg_gen_shli_i32_extends | apply tcg_gen_shri_i32_extends
    | apply tcg_gen_sari_i32_extends | apply tcg_gen_ext8s_i32_extends
    | apply tcg_gen_ext16s_i32_extends | apply Extends.of_bind | apply Extends.of_ite
    | apply Extends.of_dite | intro _ | dsimp only []) | split)

theorem tcg_gen_movcond_i32_extends (T : TCGTarget) (cond : TCGCond) (ret c1 c2 v1 v2 : TCGv_i32) :
    Extends (tcg_gen_movcond_i32 T cond ret c1 c2 v1 v2) := by
  unfold tcg_gen_movcond_i32
  repeat' (first | with_reducible (first
    | exact Extends.of_pure _ | exact Extends.of_abort | exact Extends.of_assert _
    | exact Extends.of_emit _ _ | exact Extends.of_new_i32 | exact Extends.of_cflags
    | apply tcg_gen_op6_extends | apply tcg_temp_free_i32_extends | apply tcg_gen_mov_i32_extends
    | apply tcg_gen_and_i32_extends | apply tcg_gen_or_i32_extends | apply tcg_gen_neg_i32_extends
    | apply tcg_gen_setcond_i32_extends | apply tcg_gen_andc_i32_extends | apply Extends.of_bind
    | apply Extends.of_ite | apply Extends.of_dite | intro _ | dsimp only []) | split)

theorem tcg_gen_bswap16_i32_extends (T : TCGTarget) (ret arg : TCGv_i32) :
    Extends (tcg_gen_bswap16_i32 T ret arg) := by
  unfold tcg_gen_bswap16_i32
  repeat' (first | with_reducible (first
    | exact Extends.of_pure _ | exact Extends.of_abort | exact Extends.of_assert _
    | exact Extends.of_emit _ _ | exact Extends.of_new_i32 | exact Extends.of_cflags
    | apply tcg_gen_op2_extends | apply tcg_temp_free_i32_extends | apply tcg_gen_or_i32_extends
    | apply tcg_gen_shli_i32_extends | apply tcg_gen_shri_i32_extends
    | apply tcg_gen_ext8u_i32_extends | apply Extends.of_bind | apply Extends.of_ite
    | apply Extends.of_dite | intro _ | dsimp only []) | split)

theorem tcg_gen_bswap32_i32_extends (T : TCGTarget) (ret arg : TCGv_i32) :
    Extends (tcg_gen_bswap32_i32 T ret arg) := by
  unfold tcg_gen_bswap32_i32
  repeat' (first | with_reducible (first
    | exact Extends.of_pure _ | exact Extends.of_abort | exact Extends.of_assert _
    | exact Extends.of_emit _ _ | exact Extends.of_new_i32 | exact Extends.of_cflags
    | apply tcg_gen_op2_extends | apply tcg_temp_free_i32_extends | apply tcg_const_i32_extends
    | apply tcg_gen_and_i32_extends | apply tcg_gen_or_i32_extends
    | apply tcg_gen_shli_i32_extends | apply tcg_gen_shri_i32_extends | apply Extends.of_bind
    | apply Extends.of_ite | apply Extends.of_dite | intro _ | dsimp only []) | split)

theorem tcg_gen_callN_extends (h : Helper) (args : List TCGArg) :
    Extends (tcg_gen_callN h args) := by
  unfold tcg_gen_callN
  repeat' (first | with_reducible (first
    | exact Extends.of_pure _ | exact Extends.of_abort | exact Extends.of_assert _
    | exact Extends.of_emit _ _ | exact Extends.of_new_i32 | exact Extends.of_cflags
    | apply Extends.of_bind | apply Extends.of_ite | apply Extends.of_dite | intro _
    | dsimp only []) | split)

theorem gen_helper_clz_i32_extends (ret arg1 arg2 : TCGv_i32) :
    Extends (gen_helper_clz_i32 ret arg1 arg2) := by
  unfold gen_helper_clz_i32
  repeat' (first | with_reducible (first
    | exact Extends.of_pure _ | exact Extends.of_abort | exact Extends.of_assert _
    | exact Extends.of_emit _ _ | exact Extends.of_new_i32 | exact Extends.of_cflags
    | apply tcg_gen_callN_extends | apply Extends.of_bind | apply Extends.of_ite
    | apply Extends.of_dite | intro _ | dsimp only []) | split)

theorem gen_helper_i64_extends (T : TCGTarget) (h : Helper) (ret arg1 arg2 : TCGv_i64) :
    Extends (gen_helper_i64 T h ret arg1 arg2) := by
  unfold gen_helper_i64
  repeat' (first | with_reducible (first
    | exact Extends.of_pure _ | exact Extends.of_abort | exact Extends.of_assert _
    | exact Extends.of_emit _ _ | exact Extends.of_new_i32 | exact Extends.of_cflags
    | apply tcg_gen_callN_extends | apply Extends.of_bind | apply Extends.of_ite
    | apply Extends.of_dite | intro _ | dsimp only []) | split)

theorem tcg_temp_new_i64_extends (T : TCGTarget) :
    Extends (tcg_temp_new_i64 T) :=
  fun s => List.prefix_refl _

theorem tcg_temp_free_i64_extends (t : TCGv_i64) :
    Extends (tcg_temp_free_i64 t) := by
  unfold tcg_temp_free_i64
  repeat' (first | with_reducible (first
    | exact Extends.of_pure _ | exact Extends.of_abort | exact Extends.of_assert _
    | exact Extends.of_emit _ _ | exact Extends.of_new_i32 | exact Extends.of_cflags
    | apply Extends.of_bind | apply Extends.of_ite | apply Extends.of_dite | intro _
    | dsimp only []) | split)

theorem tcg_gen_mov_i64_extends (T : TCGTarget) (ret arg : TCGv_i64) :
    Extends (tcg_gen_mov_i64 T ret arg) := by
  unfold tcg_gen_mov_i64
  repeat' (first | with_reducible (first
    | exact Extends.of_pure _ | exact Extends.of_abort | exact Extends.of_assert _
    | exact Extends.of_emit _ _ | exact Extends.of_new_i32 | exact Extends.of_cflags
    | apply tcg_gen_op2_extends | apply tcg_gen_mov_i32_extends | apply Extends.of_bind
    | apply Extends.of_ite | apply Extends.of_dite | intro _ | dsimp only []) | split)

theorem tcg_gen_movi_i64_extends (T : TCGTarget) (ret : TCGv_i64) (arg : Nat) :
    Extends (tcg_gen_movi_i64 T ret arg) := by
  unfold tcg_gen_movi_i64
  repeat' (first | with_reducible (first
    | exact Extends.of_pure _ | exact Extends.of_abort | exact Extends.of_assert _
    | exact Extends.of_emit _ _ | exact Extends.of_new_i32 | exact Extends.of_cflags
    | apply tcg_gen_op2_extends | apply tcg_gen_movi_i32_extends | apply Extends.of_bind
    | apply Extends.of_ite | apply Extends.of_dite | intro _ | dsimp only []) | split)

theorem tcg_const_i64_extends (T : TCGTarget) (val : Nat) :
    Extends (tcg_const_i64 T val) := by
  unfold tcg_const_i64
  repeat' (first | with_reducible (first
    | exact Extends.of_pure _ | exact Extends.of_abort | exact Extends.of_assert _
    | exact Extends.of_emit _ _ | exact Extends.of_new_i32 | exact Extends.of_cflags
    | apply tcg_temp_new_i64_extends | apply tcg_gen_movi_i64_extends | apply Extends.of_bind
    | apply Extends.of_ite | apply Extends.of_dite | intro _ | dsimp only []) | split)

theorem tcg_gen_and_i64_extends (T : TCGTarget) (ret arg1 arg2 : TCGv_i64) :
    Extends (tcg_gen_and_i64 T ret arg1 arg2) := by
  unfold tcg_gen_and_i64
  repeat' (first | with_reducible (first
    | exact Extends.of_pure _ | exact Extends.of_abort | exact Extends.of_assert _
    | exact Extends.of_emit _ _ | exact Extends.of_new_i32 | exact Extends.of_cflags
    | apply tcg_gen_op3_extends | apply tcg_gen_and_i32_extends | apply Extends.of_bind
    | apply Extends.of_ite | apply Extends.of_dite | intro _ | dsimp only []) | split)

theorem tcg_gen_or_i64_extends (T : TCGTarget) (ret arg1 arg2 : TCGv_i64) :
    Extends (tcg_gen_or_i64 T ret arg1 arg2) := by
  unfold tcg_gen_or_i64
  repeat' (first | with_reducible (first
    | exact Extends.of_pure _ | exact Extends.of_abort | exact Extends.of_assert _
    | exact Extends.of_emit _ _ | exact Extends.of_new_i32 | exact Extends.of_cflags
    | apply tcg_gen_op3_extends | apply tcg_gen_or_i32_extends | apply Extends.of_bind
    | apply Extends.of_ite | apply Extends.of_dite | intro _ | dsimp only []) | split)

theorem tcg_gen_xor_i64_extends (T : TCGTarget) (ret arg1 arg2 : TCGv_i64) :
    Extends (tcg_gen_xor_i64 T ret arg1 arg2) := by
  unfold tcg_gen_xor_i64
  repeat' (first | with_reducible (first
    | exact Extends.of_pure _ | exact Extends.of_abort | exact Extends.of_assert _
    | exact Extends.of_emit _ _ | exact Extends.of_new_i32 | exact Extends.of_cflags
    | apply tcg_gen_op3_extends | apply tcg_gen_xor_i32_extends | apply Extends.of_bind
    | apply Extends.of_ite | apply Extends.of_dite | intro _ | dsimp only []) | split)

theorem tcg_gen_add_i64_extends (T : TCGTarget) (ret arg1 arg2 : TCGv_i64) :
    Extends (tcg_gen_add_i64 T ret arg1 arg2) := by
  unfold tcg_gen_add_i64
  repeat' (first | with_reducible (first
    | exact Extends.of_pure _ | exact Extends.of_abort | exact Extends.of_assert _
    | exact Extends.of_emit _ _ | exact Extends.of_new_i32 | exact Extends.of_cflags
    | apply tcg_gen_op3_extends | apply tcg_gen_op6_extends | apply Extends.of_bind
    | apply Extends.of_ite | apply Extends.of_dite | intro _ | dsimp only []) | split)

theorem tcg_gen_sub_i64_extends (T : TCGTarget) (ret arg1 arg2 : TCGv_i64) :
    Extends (tcg_gen_sub_i64 T ret arg1 arg2) := by
  unfold tcg_gen_sub_i64
  repeat' (first | with_reducible (first
    | exact Extends.of_pure _ | exact Extends.of_abort | exact Extends.of_assert _
    | exact Extends.of_emit _ _ | exact Extends.of_new_i32 | exact Extends.of_cflags
    | apply tcg_gen_op3_extends | apply tcg_gen_op6_extends | apply Extends.of_bind
    | apply Extends.of_ite | apply Extends.of_dite | intro _ | dsimp only []) | split)

theorem tcg_gen_shl_i64_extends (T : TCGTarget) (ret arg1 arg2 : TCGv_i64) :
    Extends (tcg_gen_shl_i64 T ret arg1 arg2) := by
  unfold tcg_gen_shl_i64
  repeat' (first | with_reducible (first
    | exact Extends.of_pure _ | exact Extends.of_abort | exact Extends.of_assert _
    | exact Extends.of_emit _ _ | exact Extends.of_new_i32 | exact Extends.of_cflags
    | apply tcg_gen_op3_extends | apply gen_helper_i64_extends | apply Extends.of_bind
    | apply Extends.of_ite | apply Extends.of_dite | intro _ | dsimp only []) | split)

theorem tcg_gen_shr_i64_extends (T : TCGTarget) (ret arg1 arg2 : TCGv_i64) :
    Extends (tcg_gen_shr_i64 T ret arg1 arg2) := by
  unfold tcg_gen_shr_i64
  repeat' (first | with_reducible (first
    | exact Extends.of_pure _ | exact Extends.of_abort | exact Extends.of_assert _
    | exact Extends.of_emit _ _ | exact Extends.of_new_i32 | exact Extends.of_cflags
    | apply tcg_gen_op3_extends | apply gen_helper_i64_extends | apply Extends.of_bind
    | apply Extends.of_ite | apply Extends.of_dite | intro _ | dsimp only []) | split)

theorem tcg_gen_sar_i64_extends (T : TCGTarget) (ret arg1 arg2 : TCGv_i64) :
    Extends (tcg_gen_sar_i64 T ret arg1 arg2) := by
  unfold tcg_gen_sar_i64
  repeat' (first | with_reducible (first
    | exact Extends.of_pure _ | exact Extends.of_abort | exact Extends.of_assert _
    | exact Extends.of_emit _ _ | exact Extends.of_new_i32 | exact Extends.of_cflags
    | apply tcg_gen_op3_extends | apply gen_helper_i64_extends | apply Extends.of_bind
    | apply Extends.of_ite | apply Extends.of_dite | intro _ | dsimp only []) | split)

theorem tcg_gen_addi_i64_extends (T : TCGTarget) (ret arg1 : TCGv_i64) (arg2 : Nat) :
    Extends (tcg_gen_addi_i64 T ret arg1 arg2) := by
  unfold tcg_gen_addi_i64
  repeat' (first | with_reducible (first
    | exact Extends.of_pure _ | exact Extends.of_abort | exact Extends.of_assert _
    | exact Extends.of_emit _ _ | exact Extends.of_new_i32 | exact Extends.of_cflags
    | apply tcg_temp_free_i64_extends | apply tcg_gen_mov_i64_extends
    | apply tcg_const_i64_extends | apply tcg_gen_add_i64_extends | apply Extends.of_bind
    | apply Extends.of_ite | apply Extends.of_dite | intro _ | dsimp only []) | split)

theorem tcg_gen_subfi_i64_extends (T : TCGTarget) (ret : TCGv_i64) (arg1 : Nat) (arg2 : TCGv_i64) :
    Extends (tcg_gen_subfi_i64 T ret arg1 arg2) := by
  unfold tcg_gen_subfi_i64
  repeat' (first | with_reducible (first
    | exact Extends.of_pure _ | exact Extends.of_abort | exact Extends.of_assert _
    | exact Extends.of_emit _ _ | exact Extends.of_new_i32 | exact Extends.of_cflags
    | apply tcg_gen_op2_extends | apply tcg_temp_free_i64_extends | apply tcg_const_i64_extends
    | apply tcg_gen_sub_i64_extends | apply Extends.of_bind | apply Extends.of_ite
    | apply Extends.of_dite | intro _ | dsimp only []) | split)

theorem tcg_gen_subi_i64_extends (T : TCGTarget) (ret arg1 : TCGv_i64) (arg2 : Nat) :
    Extends (tcg_gen_subi_i64 T ret arg1 arg2) := by
  unfold tcg_gen_subi_i64
  repeat' (first | with_reducible (first
    | exact Extends.of_pure _ | exact Extends.of_abort | exact Extends.of_assert _
    | exact Extends.of_emit _ _ | exact Extends.of_new_i32 | exact Extends.of_cflags
    | apply tcg_temp_free_i64_extends | apply tcg_gen_mov_i64_extends
    | apply tcg_const_i64_extends | apply tcg_gen_sub_i64_extends | apply Extends.of_bind
    | apply Extends.of_ite | apply Extends.of_dite | intro _ | dsimp only []) | split)

theorem tcg_gen_andi_i64_extends (T : TCGTarget) (ret arg1 : TCGv_i64) (arg2 : Nat) :
    Extends (tcg_gen_andi_i64 T ret arg1 arg2) := by
  unfold tcg_gen_andi_i64
  repeat' (first | with_reducible (first
    | exact Extends.of_pure _ | exact Extends.of_abort | exact Extends.of_assert _
    | exact Extends.of_emit _ _ | exact Extends.of_new_i32 | exact Extends.of_cflags
    | apply tcg_gen_op2_extends | apply tcg_gen_andi_i32_extends | apply tcg_temp_free_i64_extends
    | apply tcg_gen_mov_i64_extends | apply tcg_gen_movi_i64_extends | apply tcg_const_i64_extends
    | apply tcg_gen_and_i64_extends | apply Extends.of_bind | apply Extends.of_ite
    | apply Extends.of_dite | intro _ | dsimp only []) | split)

theorem tcg_gen_xori_i64_extends (T : TCGTarget) (ret arg1 : TCGv_i64) (arg2 : Nat) :
    Extends (tcg_gen_xori_i64 T ret arg1 arg2) := by
  unfold tcg_gen_xori_i64
  repeat' (first | with_reducible (first
    | exact Extends.of_pure _ | exact Extends.of_abort | exact Extends.of_assert _
    | exact Extends.of_emit _ _ | exact Extends.of_new_i32 | exact Extends.of_cflags
    | apply tcg_gen_op2_extends | apply tcg_gen_xori_i32_extends | apply tcg_temp_free_i64_extends
    | apply tcg_gen_mov_i64_extends | apply tcg_const_i64_extends | apply tcg_gen_xor_i64_extends
    | apply Extends.of_bind | apply Extends.of_ite | apply Extends.of_dite | intro _
    | dsimp only []) | split)

theorem tcg_gen_shifti_i64_extends (T : TCGTarget) (ret arg1 : TCGv_i64) (c : Nat) (right arith : Bool) :
    Extends (tcg_gen_shifti_i64 T ret arg1 c right arith) := by
  unfold tcg_gen_shifti_i64
  repeat' (first | with_reducible (first
    | exact Extends.of_pure _ | exact Extends.of_abort | exact Extends.of_assert _
    | exact Extends.of_emit _ _ | exact Extends.of_new_i32 | exact Extends.of_cflags
    | apply tcg_temp_free_i32_extends | apply tcg_gen_mov_i32_extends
    | apply tcg_gen_movi_i32_extends | apply tcg_gen_shli_i32_extends
    | apply tcg_gen_shri_i32_extends | apply tcg_gen_sari_i32_extends
    | apply tcg_gen_deposit_i32_extends | apply tcg_gen_extract2_i32_extends
    | apply Extends.of_bind | apply Extends.of_ite | apply Extends.of_dite | intro _
    | dsimp only []) | split)

theorem tcg_gen_shli_i64_extends (T : TCGTarget) (ret arg1 : TCGv_i64) (arg2 : Nat) :
    Extends (tcg_gen_shli_i64 T ret arg1 arg2) := by
  unfold tcg_gen_shli_i64
  repeat' (first | with_reducible (first
    | exact Extends.of_pure _ | exact Extends.of_abort | exact Extends.of_assert _
    | exact Extends.of_emit _ _ | exact Extends.of_new_i32 | exact Extends.of_cflags
    | apply tcg_temp_free_i64_extends | apply tcg_gen_mov_i64_extends
    | apply tcg_const_i64_extends | apply tcg_gen_shl_i64_extends
    | apply tcg_gen_shifti_i64_extends | apply Extends.of_bind | apply Extends.of_ite
    | apply Extends.of_dite | intro _ | dsimp only []) | split)

theorem tcg_gen_shri_i64_extends (T : TCGTarget) (ret arg1 : TCGv_i64) (arg2 : Nat) :
    Extends (tcg_gen_shri_i64 T ret arg1 arg2) := by
  unfold tcg_gen_shri_i64
  repeat' (first | with_reducible (first
    | exact Extends.of_pure _ | exact Extends.of_abort | exact Extends.of_assert _
    | exact Extends.of_emit _ _ | exact Extends.of_new_i32 | exact Extends.of_cflags
    | apply tcg_temp_free_i64_extends | apply tcg_gen_mov_i64_extends
    | apply tcg_const_i64_extends | apply tcg_gen_shr_i64_extends
    | apply tcg_gen_shifti_i64_extends | apply Extends.of_bind | apply Extends.of_ite
    | apply Extends.of_dite | intro _ | dsimp only []) | split)

theorem tcg_gen_sari_i64_extends (T : TCGTarget) (ret arg1 : TCGv_i64) (arg2 : Nat) :
    Extends (tcg_gen_sari_i64 T ret arg1 arg2) := by
  unfold tcg_gen_sari_i64
  repeat' (first | with_reducible (first
    | exact Extends.of_pure _ | exact Extends.of_abort | exact Extends.of_assert _
    | exact Extends.of_emit _ _ | exact Extends.of_new_i32 | exact Extends.of_cflags
    | apply tcg_temp_free_i64_extends | apply tcg_gen_mov_i64_extends
    | apply tcg_const_i64_extends | apply tcg_gen_sar_i64_extends
    | apply tcg_gen_shifti_i64_extends | apply Extends.of_bind | apply Extends.of_ite
    | apply Extends.of_dite | intro _ | dsimp only []) | split)

theorem tcg_gen_setcond_i64_extends (T : TCGTarget) (cond : TCGCond) (ret arg1 arg2 : TCGv_i64) :
    Extends (tcg_gen_setcond_i64 T cond ret arg1 arg2) := by
  unfold tcg_gen_setcond_i64
  repeat' (first | with_reducible (first
    | exact Extends.of_pure _ | exact Extends.of_abort | exact Extends.of_assert _
    | exact Extends.of_emit _ _ | exact Extends.of_new_i32 | exact Extends.of_cflags
    | apply tcg_gen_op4_extends | apply tcg_gen_op6_extends | apply tcg_gen_movi_i32_extends
    | apply tcg_gen_movi_i64_extends | apply Extends.of_bind | apply Extends.of_ite
    | apply Extends.of_dite | intro _ | dsimp only []) | split)

theorem tcg_gen_ext8s_i64_extends (T : TCGTarget) (ret arg : TCGv_i64) :
    Extends (tcg_gen_ext8s_i64 T ret arg) := by
  unfold tcg_gen_ext8s_i64
  repeat' (first | with_reducible (first
    | exact Extends.of_pure _ | exact Extends.of_abort | exact Extends.of_assert _
    | exact Extends.of_emit _ _ | exact Extends.of_new_i32 | exact Extends.of_cflags
    | apply tcg_gen_op2_extends | apply tcg_gen_sari_i32_extends | apply tcg_gen_ext8s_i32_extends
    | apply tcg_gen_shli_i64_extends | apply tcg_gen_sari_i64_extends | apply Extends.of_bind
    | apply Extends.of_ite | apply Extends.of_dite | intro _ | dsimp only []) | split)

theorem tcg_gen_ext16s_i64_extends (T : TCGTarget) (ret arg : TCGv_i64) :
    Extends (tcg_gen_ext16s_i64 T ret arg) := by
  unfold tcg_gen_ext16s_i64
  repeat' (first | with_reducible (first
    | exact Extends.of_pure _ | exact Extends.of_abort | exact Extends.of_assert _
    | exact Extends.of_emit _ _ | exact Extends.of_new_i32 | exact Extends.of_cflags
    | apply tcg_gen_op2_extends | apply tcg_gen_sari_i32_extends
    | apply tcg_gen_ext16s_i32_extends | apply tcg_gen_shli_i64_extends
    | apply tcg_gen_sari_i64_extends | apply Extends.of_bind | apply Extends.of_ite
    | apply Extends.of_dite | intro _ | dsimp only []) | split)

theorem tcg_gen_ext32s_i64_extends (T : TCGTarget) (ret arg : TCGv_i64) :
    Extends (tcg_gen_ext32s_i64 T ret arg) := by
  unfold tcg_gen_ext32s_i64
  repeat' (first | with_reducible (first
    | exact Extends.of_pure _ | exact Extends.of_abort | exact Extends.of_assert _
    | exact Extends.of_emit _ _ | exact Extends.of_new_i32 | exact Extends.of_cflags
    | apply tcg_gen_op2_extends | apply tcg_gen_mov_i32_extends | apply tcg_gen_sari_i32_extends
    | apply tcg_gen_shli_i64_extends | apply tcg_gen_sari_i64_extends | apply Extends.of_bind
    | apply Extends.of_ite | apply Extends.of_dite | intro _ | dsimp only []) | split)

theorem tcg_gen_ext8u_i64_extends (T : TCGTarget) (ret arg : TCGv_i64) :
    Extends (tcg_gen_ext8u_i64 T ret arg) := by
  unfold tcg_gen_ext8u_i64
  repeat' (first | with_reducible (first
    | exact Extends.of_pure _ | exact Extends.of_abort | exact Extends.of_assert _
    | exact Extends.of_emit _ _ | exact Extends.of_new_i32 | exact Extends.of_cflags
    | apply tcg_gen_op2_extends | apply tcg_gen_movi_i32_extends | apply tcg_gen_ext8u_i32_extends
    | apply tcg_gen_andi_i64_extends | apply Extends.of_bind | apply Extends.of_ite
    | apply Extends.of_dite | intro _ | dsimp only []) | split)

theorem tcg_gen_ext16u_i64_extends (T : TCGTarget) (ret arg : TCGv_i64) :
    Extends (tcg_gen_ext16u_i64 T ret arg) := by
  unfold tcg_gen_ext16u_i64
  repeat' (first | with_reducible (first
    | exact Extends.of_pure _ | exact Extends.of_abort | exact Extends.of_assert _
    | exact Extends.of_emit _ _ | exact Extends.of_new_i32 | exact Extends.of_cflags
    | apply tcg_gen_op2_extends | apply tcg_gen_movi_i32_extends
    | apply tcg_gen_ext16u_i32_extends | apply tcg_gen_andi_i64_extends | apply Extends.of_bind
    | apply Extends.of_ite | apply Extends.of_dite | intro _ | dsimp only []) | split)

theorem tcg_gen_ext32u_i64_extends (T : TCGTarget) (ret arg : TCGv_i64) :
    Extends (tcg_gen_ext32u_i64 T ret arg) := by
  unfold tcg_gen_ext32u_i64
  repeat' (first | with_reducible (first
    | exact Extends.of_pure _ | exact Extends.of_abort | exact Extends.of_assert _
    | exact Extends.of_emit _ _ | exact Extends.of_new_i32 | exact Extends.of_cflags
    | apply tcg_gen_op2_extends | apply tcg_gen_mov_i32_extends | apply tcg_gen_movi_i32_extends
    | apply tcg_gen_andi_i64_extends | apply Extends.of_bind | apply Extends.of_ite
    | apply Extends.of_dite | intro _ | dsimp only []) | split)

theorem tcg_gen_bswap16_i64_extends (T : TCGTarget) (ret arg : TCGv_i64) :
    Extends (tcg_gen_bswap16_i64 T ret arg) := by
  unfold tcg_gen_bswap16_i64
  repeat' (first | with_reducible (first
    | exact Extends.of_pure _ | exact Extends.of_abort | exact Extends.of_assert _
    | exact Extends.of_emit _ _ | exact Extends.of_new_i32 | exact Extends.of_cflags
    | apply tcg_gen_op2_extends | apply tcg_gen_movi_i32_extends
    | apply tcg_gen_bswap16_i32_extends | apply tcg_temp_new_i64_extends
    | apply tcg_temp_free_i64_extends | apply tcg_gen_or_i64_extends
    | apply tcg_gen_shli_i64_extends | apply tcg_gen_shri_i64_extends
    | apply tcg_gen_ext8u_i64_extends | apply Extends.of_bind | apply Extends.of_ite
    | apply Extends.of_dite | intro _ | dsimp only []) | split)

theorem tcg_gen_bswap32_i64_extends (T : TCGTarget) (ret arg : TCGv_i64) :
    Extends (tcg_gen_bswap32_i64 T ret arg) := by
  unfold tcg_gen_bswap32_i64
  repeat' (first | with_reducible (first
    | exact Extends.of_pure _ | exact Extends.of_abort | exact Extends.of_assert _
    | exact Extends.of_emit _ _ | exact Extends.of_new_i32 | exact Extends.of_cflags
    | apply tcg_gen_op2_extends | apply tcg_gen_movi_i32_extends
    | apply tcg_gen_bswap32_i32_extends | apply tcg_temp_new_i64_extends
    | apply tcg_temp_free_i64_extends | apply tcg_const_i64_extends
    | apply tcg_gen_and_i64_extends | apply tcg_gen_or_i64_extends
    | apply tcg_gen_shli_i64_extends | apply tcg_gen_shri_i64_extends | apply Extends.of_bind
    | apply Extends.of_ite | apply Extends.of_dite | intro _ | dsimp only []) | split)

theorem tcg_gen_bswap64_i64_extends (T : TCGTarget) (ret arg : TCGv_i64) :
    Extends (tcg_gen_bswap64_i64 T ret arg) := by
  unfold tcg_gen_bswap64_i64
  repeat' (first | with_reducible (first
    | exact Extends.of_pure _ | exact Extends.of_abort | exact Extends.of_assert _
    | exact Extends.of_emit _ _ | exact Extends.of_new_i32 | exact Extends.of_cflags
    | apply tcg_gen_op2_extends | apply tcg_temp_free_i32_extends | apply tcg_gen_mov_i32_extends
    | apply tcg_gen_bswap32_i32_extends | apply tcg_temp_new_i64_extends
    | apply tcg_temp_free_i64_extends | apply tcg_gen_movi_i64_extends
    | apply tcg_gen_and_i64_extends | apply tcg_gen_or_i64_extends
    | apply tcg_gen_shli_i64_extends | apply tcg_gen_shri_i64_extends | apply Extends.of_bind
    | apply Extends.of_ite | apply Extends.of_dite | intro _ | dsimp only []) | split)

theorem tcg_gen_not_i64_extends (T : TCGTarget) (ret arg : TCGv_i64) :
    Extends (tcg_gen_not_i64 T ret arg) := by
  unfold tcg_gen_not_i64
  repeat' (first | with_reducible (first
    | exact Extends.of_pure _ | exact Extends.of_abort | exact Extends.of_assert _
    | exact Extends.of_emit _ _ | exact Extends.of_new_i32 | exact Extends.of_cflags
    | apply tcg_gen_op2_extends | apply tcg_gen_not_i32_extends | apply tcg_gen_xori_i64_extends
    | apply Extends.of_bind | apply Extends.of_ite | apply Extends.of_dite | intro _
    | dsimp only []) | split)

theorem tcg_gen_neg_i64_extends (T : TCGTarget) (ret arg : TCGv_i64) :
    Extends (tcg_gen_neg_i64 T ret arg) := by
  unfold tcg_gen_neg_i64
  repeat' (first | with_reducible (first
    | exact Extends.of_pure _ | exact Extends.of_abort | exact Extends.of_assert _
    | exact Extends.of_emit _ _ | exact Extends.of_new_i32 | exact Extends.of_cflags
    | apply tcg_gen_op2_extends | apply tcg_gen_subfi_i64_extends | apply Extends.of_bind
    | apply Extends.of_ite | apply Extends.of_dite | intro _ | dsimp only []) | split)

theorem tcg_gen_andc_i64_extends (T : TCGTarget) (ret arg1 arg2 : TCGv_i64) :
    Extends (tcg_gen_andc_i64 T ret arg1 arg2) := by
  unfold tcg_gen_andc_i64
  repeat' (first | with_reducible (first
    | exact Extends.of_pure _ | exact Extends.of_abort | exact Extends.of_assert _
    | exact Extends.of_emit _ _ | exact Extends.of_new_i32 | exact Extends.of_cflags
    | apply tcg_gen_op3_extends | apply tcg_gen_andc_i32_extends | apply tcg_temp_new_i64_extends
    | apply tcg_temp_free_i64_extends | apply tcg_gen_and_i64_extends
    | apply tcg_gen_not_i64_extends | apply Extends.of_bind | apply Extends.of_ite
    | apply Extends.of_dite | intro _ | dsimp only []) | split)

theorem tcg_gen_clz_i64_extends (T : TCGTarget) (ret arg1 arg2 : TCGv_i64) :
    Extends (tcg_gen_clz_i64 T ret arg1 arg2) := by
  unfold tcg_gen_clz_i64
  repeat' (first | with_reducible (first
    | exact Extends.of_pure _ | exact Extends.of_abort | exact Extends.of_assert _
    | exact Extends.of_emit _ _ | exact Extends.of_new_i32 | exact Extends.of_cflags
    | apply tcg_gen_op3_extends | apply gen_helper_i64_extends | apply Extends.of_bind
    | apply Extends.of_ite | apply Extends.of_dite | intro _ | dsimp only []) | split)

theorem tcg_gen_extrl_i64_i32_extends (T : TCGTarget) (ret : TCGv_i32) (arg : TCGv_i64) :
    Extends (tcg_gen_extrl_i64_i32 T ret arg) := by
  unfold tcg_gen_extrl_i64_i32
  repeat' (first | with_reducible (first
    | exact Extends.of_pure _ | exact Extends.of_abort | exact Extends.of_assert _
    | exact Extends.of_emit _ _ | exact Extends.of_new_i32 | exact Extends.of_cflags
    | apply tcg_gen_op2_extends | apply tcg_gen_mov_i32_extends | apply Extends.of_bind
    | apply Extends.of_ite | apply Extends.of_dite | intro _ | dsimp only []) | split)

theorem tcg_gen_extu_i32_i64_extends (T : TCGTarget) (ret : TCGv_i64) (arg : TCGv_i32) :
    Extends (tcg_gen_extu_i32_i64 T ret arg) := by
  unfold tcg_gen_extu_i32_i64
  repeat' (first | with_reducible (first
    | exact Extends.of_pure _ | exact Extends.of_abort | exact Extends.of_assert _
    | exact Extends.of_emit _ _ | exact Extends.of_new_i32 | exact Extends.of_cflags
    | apply tcg_gen_op2_extends | apply tcg_gen_mov_i32_extends | apply tcg_gen_movi_i32_extends
    | apply Extends.of_bind | apply Extends.of_ite | apply Extends.of_dite | intro _
    | dsimp only []) | split)

theorem tcg_gen_clz_i32_extends (T : TCGTarget) (ret arg1 arg2 : TCGv_i32) :
    Extends (tcg_gen_clz_i32 T ret arg1 arg2) := by
  unfold tcg_gen_clz_i32
  repeat' (first | with_reducible (first
    | exact Extends.of_pure _ | exact Extends.of_abort | exact Extends.of_assert _
    | exact Extends.of_emit _ _ | exact Extends.of_new_i32 | exact Extends.of_cflags
    | apply tcg_gen_op3_extends | apply tcg_gen_subi_i32_extends
    | apply gen_helper_clz_i32_extends | apply tcg_temp_new_i64_extends
    | apply tcg_temp_free_i64_extends | apply tcg_gen_addi_i64_extends
    | apply tcg_gen_clz_i64_extends | apply tcg_gen_extrl_i64_i32_extends
    | apply tcg_gen_extu_i32_i64_extends | apply Extends.of_bind | apply Extends.of_ite
    | apply Extends.of_dite | intro _ | dsimp only []) | split)

theorem tcg_gen_clzi_i32_extends (T : TCGTarget) (ret arg1 : TCGv_i32) (arg2 : Nat) :
    Extends (tcg_gen_clzi_i32 T ret arg1 arg2) := by
  unfold tcg_gen_clzi_i32
  repeat' (first | with_reducible (first
    | exact Extends.of_pure _ | exact Extends.of_abort | exact Extends.of_assert _
    | exact Extends.of_emit _ _ | exact Extends.of_new_i32 | exact Extends.of_cflags
    | apply tcg_temp_free_i32_extends | apply tcg_const_i32_extends
    | apply tcg_gen_clz_i32_extends | apply Extends.of_bind | apply Extends.of_ite
    | apply Extends.of_dite | intro _ | dsimp only []) | split)

theorem tcg_gen_clzi_i64_extends (T : TCGTarget) (ret arg1 : TCGv_i64) (arg2 : Nat) :
    Extends (tcg_gen_clzi_i64 T ret arg1 arg2) := by
  unfold tcg_gen_clzi_i64
  repeat' (first | with_reducible (first
    | exact Extends.of_pure _ | exact Extends.of_abort | exact Extends.of_assert _
    | exact Extends.of_emit _ _ | exact Extends.of_new_i32 | exact Extends.of_cflags
    | apply tcg_temp_free_i32_extends | apply tcg_gen_movi_i32_extends
    | apply tcg_const_i32_extends | apply tcg_gen_addi_i32_extends
    | apply tcg_temp_free_i64_extends | apply tcg_const_i64_extends
    | apply tcg_gen_clz_i64_extends | apply tcg_gen_clz_i32_extends | apply Extends.of_bind
    | apply Extends.of_ite | apply Extends.of_dite | intro _ | dsimp only []) | split)

theorem tcg_gen_rotl_i64_extends (T : TCGTarget) (ret arg1 arg2 : TCGv_i64) :
    Extends (tcg_gen_rotl_i64 T ret arg1 arg2) := by
  unfold tcg_gen_rotl_i64
  repeat' (first | with_reducible (first
    | exact Extends.of_pure _ | exact Extends.of_abort | exact Extends.of_assert _
    | exact Extends.of_emit _ _ | exact Extends.of_new_i32 | exact Extends.of_cflags
    | apply tcg_gen_op3_extends | apply tcg_temp_new_i64_extends | apply tcg_temp_free_i64_extends
    | apply tcg_gen_or_i64_extends | apply tcg_gen_shl_i64_extends | apply tcg_gen_shr_i64_extends
    | apply tcg_gen_subfi_i64_extends | apply Extends.of_bind | apply Extends.of_ite
    | apply Extends.of_dite | intro _ | dsimp only []) | split)

theorem tcg_gen_rotli_i64_extends (T : TCGTarget) (ret arg1 : TCGv_i64) (arg2 : Nat) :
    Extends (tcg_gen_rotli_i64 T ret arg1 arg2) := by
  unfold tcg_gen_rotli_i64
  repeat' (first | with_reducible (first
    | exact Extends.of_pure _ | exact Extends.of_abort | exact Extends.of_assert _
    | exact Extends.of_emit _ _ | exact Extends.of_new_i32 | exact Extends.of_cflags
    | apply tcg_temp_new_i64_extends | apply tcg_temp_free_i64_extends
    | apply tcg_gen_mov_i64_extends | apply tcg_const_i64_extends | apply tcg_gen_or_i64_extends
    | apply tcg_gen_shli_i64_extends | apply tcg_gen_shri_i64_extends
    | apply tcg_gen_rotl_i64_extends | apply Extends.of_bind | apply Extends.of_ite
    | apply Extends.of_dite | intro _ | dsimp only []) | split)

theorem tcg_gen_rotri_i64_extends (T : TCGTarget) (ret arg1 : TCGv_i64) (arg2 : Nat) :
    Extends (tcg_gen_rotri_i64 T ret arg1 arg2) := by
  unfold tcg_gen_rotri_i64
  repeat' (first | with_reducible (first
    | exact Extends.of_pure _ | exact Extends.of_abort | exact Extends.of_assert _
    | exact Extends.of_emit _ _ | exact Extends.of_new_i32 | exact Extends.of_cflags
    | apply tcg_gen_mov_i64_extends | apply tcg_gen_rotli_i64_extends | apply Extends.of_bind
    | apply Extends.of_ite | apply Extends.of_dite | intro _ | dsimp only []) | split)

theorem tcg_gen_extract2_i64_native_extends (T : TCGTarget) (ret al ah : Nat) (ofs : Nat)
    (h : T.TCG_TARGET_HAS_extract2_i64 = true) :
    Extends (tcg_gen_extract2_i64 T ret al ah ofs) := by
  unfold tcg_gen_extract2_i64
  simp only [h, if_true]
  repeat' (with_reducible (first
    | exact absurd trivial (by assumption) | exact Extends.of_assert _
    | apply tcg_gen_mov_i64_extends | apply tcg_gen_rotri_i64_extends | apply tcg_gen_op4_extends
    | apply Extends.of_bind | apply Extends.of_ite | apply Extends.of_dite | intro _))

theorem tcg_gen_deposit_i64_extends (T : TCGTarget) (ret arg1 arg2 : TCGv_i64) (ofs len : Nat) :
    Extends (tcg_gen_deposit_i64 T ret arg1 arg2 ofs len) := by
  unfold tcg_gen_deposit_i64
  repeat' (first | with_reducible (first
    | exact tcg_gen_extract2_i64_native_extends T _ _ _ _ (And.left (by assumption))
    | exact Extends.of_pure _ | exact Extends.of_abort | exact Extends.of_assert _
    | exact Extends.of_emit _ _ | exact Extends.of_new_i32 | exact Extends.of_cflags
    | apply tcg_gen_op5_extends | apply tcg_gen_mov_i32_extends
    | apply tcg_gen_deposit_i32_extends | apply tcg_temp_new_i64_extends
    | apply tcg_temp_free_i64_extends | apply tcg_gen_mov_i64_extends
    | apply tcg_gen_or_i64_extends | apply tcg_gen_andi_i64_extends
    | apply tcg_gen_shli_i64_extends | apply tcg_gen_rotli_i64_extends
    | apply tcg_gen_extract2_i64_extends | apply Extends.of_bind | apply Extends.of_ite
    | apply Extends.of_dite | intro _ | dsimp only []) | split)

theorem tcg_gen_extract2_i64_extends (T : TCGTarget) (ret al ah : TCGv_i64) (ofs : Nat) :
    Extends (tcg_gen_extract2_i64 T ret al ah ofs) := by
  unfold tcg_gen_extract2_i64
  repeat' (first | with_reducible (first
    | exact Extends.of_pure _ | exact Extends.of_abort | exact Extends.of_assert _
    | exact Extends.of_emit _ _ | exact Extends.of_new_i32 | exact Extends.of_cflags
    | apply tcg_gen_op4_extends | apply tcg_temp_new_i64_extends | apply tcg_temp_free_i64_extends
    | apply tcg_gen_mov_i64_extends | apply tcg_gen_shri_i64_extends
    | apply tcg_gen_rotri_i64_extends | apply tcg_gen_deposit_i64_extends | apply Extends.of_bind
    | apply Extends.of_ite | apply Extends.of_dite | intro _ | dsimp only []) | split)

theorem tcg_gen_extract_i64_extends (T : TCGTarget) (ret arg : TCGv_i64) (ofs len : Nat) :
    Extends (tcg_gen_extract_i64 T ret arg ofs len) := by
  unfold tcg_gen_extract_i64
  repeat' (first | with_reducible (first
    | exact Extends.of_pure _ | exact Extends.of_abort | exact Extends.of_assert _
    | exact Extends.of_emit _ _ | exact Extends.of_new_i32 | exact Extends.of_cflags
    | apply tcg_gen_op4_extends | apply tcg_gen_movi_i32_extends
    | apply tcg_gen_extract_i32_extends | apply tcg_gen_andi_i64_extends
    | apply tcg_gen_shli_i64_extends | apply tcg_gen_shri_i64_extends
    | apply tcg_gen_ext8u_i64_extends | apply tcg_gen_ext16u_i64_extends
    | apply tcg_gen_ext32u_i64_extends | apply Extends.of_bind | apply Extends.of_ite
    | apply Extends.of_dite | intro _ | dsimp only []) | split)

theorem tcg_gen_sextract_i64_extends (T : TCGTarget) (ret arg : TCGv_i64) (ofs len : Nat) :
    Extends (tcg_gen_sextract_i64 T ret arg ofs len) := by
  unfold tcg_gen_sextract_i64
  repeat' (first | with_reducible (first
    | exact Extends.of_pure _ | exact Extends.of_abort | exact Extends.of_assert _
    | exact Extends.of_emit _ _ | exact Extends.of_new_i32 | exact Extends.of_cflags
    | apply tcg_gen_op4_extends | apply tcg_temp_free_i32_extends | apply tcg_gen_mov_i32_extends
    | apply tcg_gen_sari_i32_extends | apply tcg_gen_sextract_i32_extends
    | apply tcg_gen_shli_i64_extends | apply tcg_gen_shri_i64_extends
    | apply tcg_gen_sari_i64_extends | apply tcg_gen_ext8s_i64_extends
    | apply tcg_gen_ext16s_i64_extends | apply tcg_gen_ext32s_i64_extends | apply Extends.of_bind
    | apply Extends.of_ite | apply Extends.of_dite | intro _ | dsimp only []) | split)

theorem tcg_gen_movcond_i64_extends (T : TCGTarget) (cond : TCGCond) (ret c1 c2 v1 v2 : TCGv_i64) :
    Extends (tcg_gen_movcond_i64 T cond ret c1 c2 v1 v2) := by
  unfold tcg_gen_movcond_i64
  repeat' (first | with_reducible (first
    | exact Extends.of_pure _ | exact Extends.of_abort | exact Extends.of_assert _
    | exact Extends.of_emit _ _ | exact Extends.of_new_i32 | exact Extends.of_cflags
    | apply tcg_gen_op6_extends | apply tcg_temp_free_i32_extends | apply tcg_gen_movi_i32_extends
    | apply tcg_gen_and_i32_extends | apply tcg_gen_or_i32_extends | apply tcg_gen_neg_i32_extends
    | apply tcg_gen_andc_i32_extends | apply tcg_gen_movcond_i32_extends
    | apply tcg_temp_new_i64_extends | apply tcg_temp_free_i64_extends
    | apply tcg_gen_mov_i64_extends | apply tcg_gen_and_i64_extends | apply tcg_gen_or_i64_extends
    | apply tcg_gen_setcond_i64_extends | apply tcg_gen_neg_i64_extends
    | apply tcg_gen_andc_i64_extends | apply Extends.of_bind | apply Extends.of_ite
    | apply Extends.of_dite | intro _ | dsimp only []) | split)

theorem tcg_gen_smin_i32_extends (T : TCGTarget) (ret a b : TCGv_i32) :
    Extends (tcg_gen_smin_i32 T ret a b) := by
  unfold tcg_gen_smin_i32
  repeat' (first | with_reducible (first
    | exact Extends.of_pure _ | exact Extends.of_abort | exact Extends.of_assert _
    | exact Extends.of_emit _ _ | exact Extends.of_new_i32 | exact Extends.of_cflags
    | apply tcg_gen_movcond_i32_extends | apply Extends.of_bind | apply Extends.of_ite
    | apply Extends.of_dite | intro _ | dsimp only []) | split)

theorem tcg_gen_umin_i32_extends (T : TCGTarget) (ret a b : TCGv_i32) :
    Extends (tcg_gen_umin_i32 T ret a b) := by
  unfold tcg_gen_umin_i32
  repeat' (first | with_reducible (first
    | exact Extends.of_pure _ | exact Extends.of_abort | exact Extends.of_assert _
    | exact Extends.of_emit _ _ | exact Extends.of_new_i32 | exact Extends.of_cflags
    | apply tcg_gen_movcond_i32_extends | apply Extends.of_bind | apply Extends.of_ite
    | apply Extends.of_dite | intro _ | dsimp only []) | split)

theorem tcg_gen_smax_i32_extends (T : TCGTarget) (ret a b : TCGv_i32) :
    Extends (tcg_gen_smax_i32 T ret a b) := by
  unfold tcg_gen_smax_i32
  repeat' (first | with_reducible (first
    | exact Extends.of_pure _ | exact Extends.of_abort | exact Extends.of_assert _
    | exact Extends.of_emit _ _ | exact Extends.of_new_i32 | exact Extends.of_cflags
    | apply tcg_gen_movcond_i32_extends | apply Extends.of_bind | apply Extends.of_ite
    | apply Extends.of_dite | intro _ | dsimp only []) | split)

theorem tcg_gen_umax_i32_extends (T : TCGTarget) (ret a b : TCGv_i32) :
    Extends (tcg_gen_umax_i32 T ret a b) := by
  unfold tcg_gen_umax_i32
  repeat' (first | with_reducible (first
    | exact Extends.of_pure _ | exact Extends.of_abort | exact Extends.of_assert _
    | exact Extends.of_emit _ _ | exact Extends.of_new_i32 | exact Extends.of_cflags
    | apply tcg_gen_movcond_i32_extends | apply Extends.of_bind | apply Extends.of_ite
    | apply Extends.of_dite | intro _ | dsimp only []) | split)

theorem tcg_gen_smin_i64_extends (T : TCGTarget) (ret a b : TCGv_i64) :
    Extends (tcg_gen_smin_i64 T ret a b) := by
  unfold tcg_gen_smin_i64
  repeat' (first | with_reducible (first
    | exact Extends.of_pure _ | exact Extends.of_abort | exact Extends.of_assert _
    | exact Extends.of_emit _ _ | exact Extends.of_new_i32 | exact Extends.of_cflags
    | apply tcg_gen_movcond_i64_extends | apply Extends.of_bind | apply Extends.of_ite
    | apply Extends.of_dite | intro _ | dsimp only []) | split)

theorem tcg_gen_umin_i64_extends (T : TCGTarget) (ret a b : TCGv_i64) :
    Extends (tcg_gen_umin_i64 T ret a b) := by
  unfold tcg_gen_umin_i64
  repeat' (first | with_reducible (first
    | exact Extends.of_pure _ | exact Extends.of_abort | exact Extends.of_assert _
    | exact Extends.of_emit _ _ | exact Extends.of_new_i32 | exact Extends.of_cflags
    | apply tcg_gen_movcond_i64_extends | apply Extends.of_bind | apply Extends.of_ite
    | apply Extends.of_dite | intro _ | dsimp only []) | split)

theorem tcg_gen_smax_i64_extends (T : TCGTarget) (ret a b : TCGv_i64) :
    Extends (tcg_gen_smax_i64 T ret a b) := by
  unfold tcg_gen_smax_i64
  repeat' (first | with_reducible (first
    | exact Extends.of_pure _ | exact Extends.of_abort | exact Extends.of_assert _
    | exact Extends.of_emit _ _ | exact Extends.of_new_i32 | exact Extends.of_cflags
    | apply tcg_gen_movcond_i64_extends | apply Extends.of_bind | apply Extends.of_ite
    | apply Extends.of_dite | intro _ | dsimp only []) | split)

theorem tcg_gen_umax_i64_extends (T : TCGTarget) (ret a b : TCGv_i64) :
    Extends (tcg_gen_umax_i64 T ret a b) := by
  unfold tcg_gen_umax_i64
  repeat' (first | with_reducible (first
    | exact Extends.of_pure _ | exact Extends.of_abort | exact Extends.of_assert _
    | exact Extends.of_emit _ _ | exact Extends.of_new_i32 | exact Extends.of_cflags
    | apply tcg_gen_movcond_i64_extends | apply Extends.of_bind | apply Extends.of_ite
    | apply Extends.of_dite | intro _ | dsimp only []) | split)

theorem tcg_gen_abs_i32_extends (ret a : TCGv_i32) :
    Extends (tcg_gen_abs_i32 ret a) := by
  unfold tcg_gen_abs_i32
  repeat' (first | with_reducible (first
    | exact Extends.of_pure _ | exact Extends.of_abort | exact Extends.of_assert _
    | exact Extends.of_emit _ _ | exact Extends.of_new_i32 | exact Extends.of_cflags
    | apply tcg_temp_free_i32_extends | apply tcg_gen_sub_i32_extends
    | apply tcg_gen_xor_i32_extends | apply tcg_gen_sari_i32_extends | apply Extends.of_bind
    | apply Extends.of_ite | apply Extends.of_dite | intro _ | dsimp only []) | split)

theorem tcg_gen_abs_i64_extends (T : TCGTarget) (ret a : TCGv_i64) :
    Extends (tcg_gen_abs_i64 T ret a) := by
  unfold tcg_gen_abs_i64
  repeat' (first | with_reducible (first
    | exact Extends.of_pure _ | exact Extends.of_abort | exact Extends.of_assert _
    | exact Extends.of_emit _ _ | exact Extends.of_new_i32 | exact Extends.of_cflags
    | apply tcg_temp_new_i64_extends | apply tcg_temp_free_i64_extends
    | apply tcg_gen_xor_i64_extends | apply tcg_gen_sub_i64_extends
    | apply tcg_gen_sari_i64_extends | apply Extends.of_bind | apply Extends.of_ite
    | apply Extends.of_dite | intro _ | dsimp only []) | split)

theorem tcg_gen_rotr_i64_extends (T : TCGTarget) (ret arg1 arg2 : TCGv_i64) :
    Extends (tcg_gen_rotr_i64 T ret arg1 arg2) := by
  unfold tcg_gen_rotr_i64
  repeat' (first | with_reducible (first
    | exact Extends.of_pure _ | exact Extends.of_abort | exact Extends.of_assert _
    | exact Extends.of_emit _ _ | exact Extends.of_new_i32 | exact Extends.of_cflags
    | apply tcg_gen_op3_extends | apply tcg_temp_new_i64_extends | apply tcg_temp_free_i64_extends
    | apply tcg_gen_or_i64_extends | apply tcg_gen_shl_i64_extends | apply tcg_gen_shr_i64_extends
    | apply tcg_gen_subfi_i64_extends | apply Extends.of_bind | apply Extends.of_ite
    | apply Extends.of_dite | intro _ | dsimp only []) | split)

theorem gen_helper_ctz_i32_extends (ret arg1 arg2 : TCGv_i32) :
    Extends (gen_helper_ctz_i32 ret arg1 arg2) := by
  unfold gen_helper_ctz_i32
  repeat' (first | with_reducible (first
    | exact Extends.of_pure _ | exact Extends.of_abort | exact Extends.of_assert _
    | exact Extends.of_emit _ _ | exact Extends.of_new_i32 | exact Extends.of_cflags
    | apply tcg_gen_callN_extends | apply Extends.of_bind | apply Extends.of_ite
    | apply Extends.of_dite | intro _ | dsimp only []) | split)

theorem gen_helper_ctpop_i32_extends (ret arg1 : TCGv_i32) :
    Extends (gen_helper_ctpop_i32 ret arg1) := by
  unfold gen_helper_ctpop_i32
  repeat' (first | with_reducible (first
    | exact Extends.of_pure _ | exact Extends.of_abort | exact Extends.of_assert _
    | exact Extends.of_emit _ _ | exact Extends.of_new_i32 | exact Extends.of_cflags
    | apply tcg_gen_callN_extends | apply Extends.of_bind | apply Extends.of_ite
    | apply Extends.of_dite | intro _ | dsimp only []) | split)

theorem gen_helper_ctpop_i64_extends (T : TCGTarget) (ret arg1 : TCGv_i64) :
    Extends (gen_helper_ctpop_i64 T ret arg1) := by
  unfold gen_helper_ctpop_i64
  repeat' (first | with_reducible (first
    | exact Extends.of_pure _ | exact Extends.of_abort | exact Extends.of_assert _
    | exact Extends.of_emit _ _ | exact Extends.of_new_i32 | exact Extends.of_cflags
    | apply tcg_gen_callN_extends | apply Extends.of_bind | apply Extends.of_ite
    | apply Extends.of_dite | intro _ | dsimp only []) | split)

theorem tcg_gen_ctpop_i64_native_extends (T : TCGTarget) (ret arg1 : Nat)
    (h : T.TCG_TARGET_HAS_ctpop_i64 = true) :
    Extends (tcg_gen_ctpop_i64 T ret arg1) := by
  unfold tcg_gen_ctpop_i64
  simp only [h, dite_true]
  exact tcg_gen_op2_extends _ _ _

theorem tcg_gen_ctpop_i32_extends (T : TCGTarget) (ret arg1 : TCGv_i32) :
    Extends (tcg_gen_ctpop_i32 T ret arg1) := by
  unfold tcg_gen_ctpop_i32
  repeat' (first | with_reducible (first
    | exact tcg_gen_ctpop_i64_native_extends T _ _ (by assumption) | exact Extends.of_pure _
    | exact Extends.of_abort | exact Extends.of_assert _ | exact Extends.of_emit _ _
    | exact Extends.of_new_i32 | exact Extends.of_cflags | apply tcg_gen_op2_extends
    | apply tcg_temp_new_i64_extends | apply tcg_temp_free_i64_extends
    | apply tcg_gen_extrl_i64_i32_extends | apply tcg_gen_extu_i32_i64_extends
    | apply gen_helper_ctpop_i32_extends | apply tcg_gen_ctpop_i64_extends | apply Extends.of_bind
    | apply Extends.of_ite | apply Extends.of_dite | intro _ | dsimp only []) | split)

theorem tcg_gen_ctpop_i64_extends (T : TCGTarget) (ret arg1 : TCGv_i64) :
    Extends (tcg_gen_ctpop_i64 T ret arg1) := by
  unfold tcg_gen_ctpop_i64
  repeat' (first | with_reducible (first
    | exact Extends.of_pure _ | exact Extends.of_abort | exact Extends.of_assert _
    | exact Extends.of_emit _ _ | exact Extends.of_new_i32 | exact Extends.of_cflags
    | apply tcg_gen_op2_extends | apply tcg_gen_movi_i32_extends | apply tcg_gen_add_i32_extends
    | apply gen_helper_ctpop_i64_extends | apply tcg_gen_ctpop_i32_extends | apply Extends.of_bind
    | apply Extends.of_ite | apply Extends.of_dite | intro _ | dsimp only []) | split)

theorem tcg_gen_ctz_i64_extends (T : TCGTarget) (ret arg1 arg2 : TCGv_i64) :
    Extends (tcg_gen_ctz_i64 T ret arg1 arg2) := by
  unfold tcg_gen_ctz_i64
  repeat' (first | with_reducible (first
    | exact Extends.of_pure _ | exact Extends.of_abort | exact Extends.of_assert _
    | exact Extends.of_emit _ _ | exact Extends.of_new_i32 | exact Extends.of_cflags
    | apply tcg_gen_op3_extends | apply gen_helper_i64_extends | apply tcg_temp_new_i64_extends
    | apply tcg_temp_free_i64_extends | apply tcg_const_i64_extends
    | apply tcg_gen_and_i64_extends | apply tcg_gen_subi_i64_extends
    | apply tcg_gen_xori_i64_extends | apply tcg_gen_neg_i64_extends
    | apply tcg_gen_andc_i64_extends | apply tcg_gen_clzi_i64_extends
    | apply tcg_gen_movcond_i64_extends | apply tcg_gen_ctpop_i64_extends | apply Extends.of_bind
    | apply Extends.of_ite | apply Extends.of_dite | intro _ | dsimp only []) | split)

theorem tcg_gen_ctz_i32_extends (T : TCGTarget) (ret arg1 arg2 : TCGv_i32) :
    Extends (tcg_gen_ctz_i32 T ret arg1 arg2) := by
  unfold tcg_gen_ctz_i32
  repeat' (first | with_reducible (first
    | exact Extends.of_pure _ | exact Extends.of_abort | exact Extends.of_assert _
    | exact Extends.of_emit _ _ | exact Extends.of_new_i32 | exact Extends.of_cflags
    | apply tcg_gen_op3_extends | apply tcg_temp_free_i32_extends | apply tcg_const_i32_extends
    | apply tcg_gen_and_i32_extends | apply tcg_gen_subi_i32_extends
    | apply tcg_gen_xori_i32_extends | apply tcg_gen_neg_i32_extends
    | apply tcg_gen_andc_i32_extends | apply tcg_gen_movcond_i32_extends
    | apply tcg_temp_new_i64_extends | apply tcg_temp_free_i64_extends
    | apply tcg_gen_extrl_i64_i32_extends | apply tcg_gen_extu_i32_i64_extends
    | apply tcg_gen_clzi_i32_extends | apply gen_helper_ctz_i32_extends
    | apply tcg_gen_ctpop_i32_extends | apply tcg_gen_ctz_i64_extends | apply Extends.of_bind
    | apply Extends.of_ite | apply Extends.of_dite | intro _ | dsimp only []) | split)

theorem tcg_gen_ctzi_i32_extends (T : TCGTarget) (ret arg1 : TCGv_i32) (arg2 : Nat) :
    Extends (tcg_gen_ctzi_i32 T ret arg1 arg2) := by
  unfold tcg_gen_ctzi_i32
  repeat' (first | with_reducible (first
    | exact Extends.of_pure _ | exact Extends.of_abort | exact Extends.of_assert _
    | exact Extends.of_emit _ _ | exact Extends.of_new_i32 | exact Extends.of_cflags
    | apply tcg_temp_free_i32_extends | apply tcg_const_i32_extends
    | apply tcg_gen_subi_i32_extends | apply tcg_gen_andc_i32_extends
    | apply tcg_gen_ctpop_i32_extends | apply tcg_gen_ctz_i32_extends | apply Extends.of_bind
    | apply Extends.of_ite | apply Extends.of_dite | intro _ | dsimp only []) | split)

theorem tcg_gen_ctzi_i64_extends (T : TCGTarget) (ret arg1 : TCGv_i64) (arg2 : Nat) :
    Extends (tcg_gen_ctzi_i64 T ret arg1 arg2) := by
  unfold tcg_gen_ctzi_i64
  repeat' (first | with_reducible (first
    | exact Extends.of_pure _ | exact Extends.of_abort | exact Extends.of_assert _
    | exact Extends.of_emit _ _ | exact Extends.of_new_i32 | exact Extends.of_cflags
    | apply tcg_temp_free_i32_extends | apply tcg_gen_movi_i32_extends
    | apply tcg_const_i32_extends | apply tcg_gen_addi_i32_extends
    | apply tcg_temp_new_i64_extends | apply tcg_temp_free_i64_extends
    | apply tcg_const_i64_extends | apply tcg_gen_subi_i64_extends
    | apply tcg_gen_andc_i64_extends | apply tcg_gen_ctpop_i64_extends
    | apply tcg_gen_ctz_i64_extends | apply tcg_gen_ctz_i32_extends | apply Extends.of_bind
    | apply Extends.of_ite | apply Extends.of_dite | intro _ | dsimp only []) | split)

theorem tcg_gen_ori_i32_extends (ret arg1 : TCGv_i32) (arg2 : Nat) :
    Extends (tcg_gen_ori_i32 ret arg1 arg2) := by
  unfold tcg_gen_ori_i32
  repeat' (first | with_reducible (first
    | exact Extends.of_pure _ | exact Extends.of_abort | exact Extends.of_assert _
    | exact Extends.of_emit _ _ | exact Extends.of_new_i32 | exact Extends.of_cflags
    | apply tcg_temp_free_i32_extends | apply tcg_gen_mov_i32_extends
    | apply tcg_gen_movi_i32_extends | apply tcg_const_i32_extends | apply tcg_gen_or_i32_extends
    | apply Extends.of_bind | apply Extends.of_ite | apply Extends.of_dite | intro _
    | dsimp only []) | split)

theorem tcg_gen_ori_i64_extends (T : TCGTarget) (ret arg1 : TCGv_i64) (arg2 : Nat) :
    Extends (tcg_gen_ori_i64 T ret arg1 arg2) := by
  unfold tcg_gen_ori_i64
  repeat' (first | with_reducible (first
    | exact Extends.of_pure _ | exact Extends.of_abort | exact Extends.of_assert _
    | exact Extends.of_emit _ _ | exact Extends.of_new_i32 | exact Extends.of_cflags
    | apply tcg_temp_free_i64_extends | apply tcg_gen_mov_i64_extends
    | apply tcg_gen_movi_i64_extends | apply tcg_const_i64_extends | apply tcg_gen_or_i64_extends
    | apply tcg_gen_ori_i32_extends | apply Extends.of_bind | apply Extends.of_ite
    | apply Extends.of_dite | intro _ | dsimp only []) | split)

theorem tcg_gen_mul_i32_extends (ret arg1 arg2 : TCGv_i32) :
    Extends (tcg_gen_mul_i32 ret arg1 arg2) := by
  unfold tcg_gen_mul_i32
  repeat' (first | with_reducible (first
    | exact Extends.of_pure _ | exact Extends.of_abort | exact Extends.of_assert _
    | exact Extends.of_emit _ _ | exact Extends.of_new_i32 | exact Extends.of_cflags
    | apply tcg_gen_op3_extends | apply Extends.of_bind | apply Extends.of_ite
    | apply Extends.of_dite | intro _ | dsimp only []) | split)

theorem tcg_gen_muli_i32_extends (ret arg1 : TCGv_i32) (arg2 : Nat) :
    Extends (tcg_gen_muli_i32 ret arg1 arg2) := by
  unfold tcg_gen_muli_i32
  repeat' (first | with_reducible (first
    | exact Extends.of_pure _ | exact Extends.of_abort | exact Extends.of_assert _
    | exact Extends.of_emit _ _ | exact Extends.of_new_i32 | exact Extends.of_cflags
    | apply tcg_temp_free_i32_extends | apply tcg_gen_movi_i32_extends
    | apply tcg_const_i32_extends | apply tcg_gen_shli_i32_extends | apply tcg_gen_mul_i32_extends
    | apply Extends.of_bind | apply Extends.of_ite | apply Extends.of_dite | intro _
    | dsimp only []) | split)

theorem tcg_gen_extrh_i64_i32_extends (T : TCGTarget) (ret : TCGv_i32) (arg : TCGv_i64) :
    Extends (tcg_gen_extrh_i64_i32 T ret arg) := by
  unfold tcg_gen_extrh_i64_i32
  repeat' (first | with_reducible (first
    | exact Extends.of_pure _ | exact Extends.of_abort | exact Extends.of_assert _
    | exact Extends.of_emit _ _ | exact Extends.of_new_i32 | exact Extends.of_cflags
    | apply tcg_gen_op2_extends | apply tcg_gen_mov_i32_extends | apply tcg_temp_new_i64_extends
    | apply tcg_temp_free_i64_extends | apply tcg_gen_shri_i64_extends | apply Extends.of_bind
    | apply Extends.of_ite | apply Extends.of_dite | intro _ | dsimp only []) | split)

theorem tcg_gen_ext_i32_i64_extends (T : TCGTarget) (ret : TCGv_i64) (arg : TCGv_i32) :
    Extends (tcg_gen_ext_i32_i64 T ret arg) := by
  unfold tcg_gen_ext_i32_i64
  repeat' (first | with_reducible (first
    | exact Extends.of_pure _ | exact Extends.of_abort | exact Extends.of_assert _
    | exact Extends.of_emit _ _ | exact Extends.of_new_i32 | exact Extends.of_cflags
    | apply tcg_gen_op2_extends | apply tcg_gen_mov_i32_extends | apply tcg_gen_sari_i32_extends
    | apply Extends.of_bind | apply Extends.of_ite | apply Extends.of_dite | intro _
    | dsimp only []) | split)

theorem tcg_gen_extr_i64_i32_extends (T : TCGTarget) (lo hi : TCGv_i32) (arg : TCGv_i64) :
    Extends (tcg_gen_extr_i64_i32 T lo hi arg) := by
  unfold tcg_gen_extr_i64_i32
  repeat' (first | with_reducible (first
    | exact Extends.of_pure _ | exact Extends.of_abort | exact Extends.of_assert _
    | exact Extends.of_emit _ _ | exact Extends.of_new_i32 | exact Extends.of_cflags
    | apply tcg_gen_mov_i32_extends | apply tcg_gen_extrl_i64_i32_extends
    | apply tcg_gen_extrh_i64_i32_extends | apply Extends.of_bind | apply Extends.of_ite
    | apply Extends.of_dite | intro _ | dsimp only []) | split)

theorem out_of_fuel_extends {α : Type} : Extends (out_of_fuel : Gen α) :=
  fun s => List.prefix_refl _

theorem mul_fuel_extends (T : TCGTarget) (fuel : Nat) :
    (∀ ret arg1 arg2, Extends (tcg_gen_mul_i64 T fuel ret arg1 arg2)) ∧
    (∀ rl rh arg1 arg2, Extends (tcg_gen_mulu2_i32 T fuel rl rh arg1 arg2)) := by
  induction fuel with
  | zero =>
    have ih : True ∧ True := ⟨trivial, trivial⟩
    constructor
    · intro ret arg1 arg2
      unfold tcg_gen_mul_i64
      repeat' (first
    | with_reducible (first
      | exact Extends.of_pure _ | exact out_of_fuel_extends | exact Extends.of_new_i32
      | apply tcg_temp_new_i64_extends | apply tcg_temp_free_i64_extends
      | apply tcg_temp_free_i32_extends | apply tcg_gen_op3_extends | apply tcg_gen_op4_extends
      | apply tcg_gen_mul_i32_extends | apply tcg_gen_add_i32_extends
      | apply tcg_gen_mov_i32_extends | apply tcg_gen_mov_i64_extends
      | apply tcg_gen_extu_i32_i64_extends | apply tcg_gen_extr_i64_i32_extends
      | apply ih.1 | apply ih.2
      | apply Extends.of_bind | apply Extends.of_ite | apply Extends.of_dite | intro _
      | dsimp only [])
    | split)
    · intro rl rh arg1 arg2
      unfold tcg_gen_mulu2_i32
      repeat' (first
    | with_reducible (first
      | exact Extends.of_pure _ | exact out_of_fuel_extends | exact Extends.of_new_i32
      | apply tcg_temp_new_i64_extends | apply tcg_temp_free_i64_extends
      | apply tcg_temp_free_i32_extends | apply tcg_gen_op3_extends | apply tcg_gen_op4_extends
      | apply tcg_gen_mul_i32_extends | apply tcg_gen_add_i32_extends
      | apply tcg_gen_mov_i32_extends | apply tcg_gen_mov_i64_extends
      | apply tcg_gen_extu_i32_i64_extends | apply tcg_gen_extr_i64_i32_extends
      | apply ih.1 | apply ih.2
      | apply Extends.of_bind | apply Extends.of_ite | apply Extends.of_dite | intro _
      | dsimp only [])
    | split)
  | succ n ih =>
    constructor
    · intro ret arg1 arg2
      unfold tcg_gen_mul_i64
      repeat' (first
    | with_reducible (first
      | exact Extends.of_pure _ | exact out_of_fuel_extends | exact Extends.of_new_i32
      | apply tcg_temp_new_i64_extends | apply tcg_temp_free_i64_extends
      | apply tcg_temp_free_i32_extends | apply tcg_gen_op3_extends | apply tcg_gen_op4_extends
      | apply tcg_gen_mul_i32_extends | apply tcg_gen_add_i32_extends
      | apply tcg_gen_mov_i32_extends | apply tcg_gen_mov_i64_extends
      | apply tcg_gen_extu_i32_i64_extends | apply tcg_gen_extr_i64_i32_extends
      | apply ih.1 | apply ih.2
      | apply Extends.of_bind | apply Extends.of_ite | apply Extends.of_dite | intro _
      | dsimp only [])
    | split)
    · intro rl rh arg1 arg2
      unfold tcg_gen_mulu2_i32
      repeat' (first
    | with_reducible (first
      | exact Extends.of_pure _ | exact out_of_fuel_extends | exact Extends.of_new_i32
      | apply tcg_temp_new_i64_extends | apply tcg_temp_free_i64_extends
      | apply tcg_temp_free_i32_extends | apply tcg_gen_op3_extends | apply tcg_gen_op4_extends
      | apply tcg_gen_mul_i32_extends | apply tcg_gen_add_i32_extends
      | apply tcg_gen_mov_i32_extends | apply tcg_gen_mov_i64_extends
      | apply tcg_gen_extu_i32_i64_extends | apply tcg_gen_extr_i64_i32_extends
      | apply ih.1 | apply ih.2
      | apply Extends.of_bind | apply Extends.of_ite | apply Extends.of_dite | intro _
      | dsimp only [])
    | split)

theorem tcg_gen_mul_i64_extends (T : TCGTarget) (fuel : Nat) (ret arg1 arg2 : TCGv_i64) :
    Extends (tcg_gen_mul_i64 T fuel ret arg1 arg2) :=
  (mul_fuel_extends T fuel).1 ret arg1 arg2

theorem tcg_gen_mulu2_i32_extends (T : TCGTarget) (fuel : Nat) (rl rh arg1 arg2 : TCGv_i32) :
    Extends (tcg_gen_mulu2_i32 T fuel rl rh arg1 arg2) :=
  (mul_fuel_extends T fuel).2 rl rh arg1 arg2

theorem tcg_gen_muli_i64_extends (T : TCGTarget) (fuel : Nat) (ret arg1 : TCGv_i64) (arg2 : Nat) :
    Extends (tcg_gen_muli_i64 T fuel ret arg1 arg2) := by
  unfold tcg_gen_muli_i64
  repeat' (first | with_reducible (first
    | exact Extends.of_pure _ | exact Extends.of_abort | exact Extends.of_assert _
    | exact Extends.of_emit _ _ | exact Extends.of_new_i32 | exact Extends.of_cflags
    | apply tcg_temp_free_i64_extends | apply tcg_gen_movi_i64_extends
    | apply tcg_const_i64_extends | apply tcg_gen_shli_i64_extends | apply tcg_gen_mul_i64_extends
    | apply Extends.of_bind | apply Extends.of_ite | apply Extends.of_dite | intro _
    | dsimp only []) | split)

theorem tcg_gen_muls2_i32_extends (T : TCGTarget) (fuel : Nat) (rl rh arg1 arg2 : TCGv_i32) :
    Extends (tcg_gen_muls2_i32 T fuel rl rh arg1 arg2) := by
  unfold tcg_gen_muls2_i32
  repeat' (first | with_reducible (first
    | exact Extends.of_pure _ | exact Extends.of_abort | exact Extends.of_assert _
    | exact Extends.of_emit _ _ | exact Extends.of_new_i32 | exact Extends.of_cflags
    | apply tcg_gen_op3_extends | apply tcg_gen_op4_extends | apply tcg_temp_free_i32_extends
    | apply tcg_gen_mov_i32_extends | apply tcg_gen_sub_i32_extends
    | apply tcg_gen_and_i32_extends | apply tcg_gen_sari_i32_extends
    | apply tcg_temp_new_i64_extends | apply tcg_temp_free_i64_extends
    | apply tcg_gen_ext_i32_i64_extends | apply tcg_gen_extr_i64_i32_extends
    | apply tcg_gen_mul_i64_extends | apply tcg_gen_mulu2_i32_extends | apply Extends.of_bind
    | apply Extends.of_ite | apply Extends.of_dite | intro _ | dsimp only []) | split)

theorem tcg_gen_add2_i64_extends (T : TCGTarget) (rl rh al ah bl bh : TCGv_i64) :
    Extends (tcg_gen_add2_i64 T rl rh al ah bl bh) := by
  unfold tcg_gen_add2_i64
  repeat' (first | with_reducible (first
    | exact Extends.of_pure _ | exact Extends.of_abort | exact Extends.of_assert _
    | exact Extends.of_emit _ _ | exact Extends.of_new_i32 | exact Extends.of_cflags
    | apply tcg_gen_op6_extends | apply tcg_temp_new_i64_extends | apply tcg_temp_free_i64_extends
    | apply tcg_gen_mov_i64_extends | apply tcg_gen_add_i64_extends
    | apply tcg_gen_setcond_i64_extends | apply Extends.of_bind | apply Extends.of_ite
    | apply Extends.of_dite | intro _ | dsimp only []) | split)

theorem tcg_gen_sub2_i64_extends (T : TCGTarget) (rl rh al ah bl bh : TCGv_i64) :
    Extends (tcg_gen_sub2_i64 T rl rh al ah bl bh) := by
  unfold tcg_gen_sub2_i64
  repeat' (first | with_reducible (first
    | exact Extends.of_pure _ | exact Extends.of_abort | exact Extends.of_assert _
    | exact Extends.of_emit _ _ | exact Extends.of_new_i32 | exact Extends.of_cflags
    | apply tcg_gen_op6_extends | apply tcg_temp_new_i64_extends | apply tcg_temp_free_i64_extends
    | apply tcg_gen_mov_i64_extends | apply tcg_gen_sub_i64_extends
    | apply tcg_gen_setcond_i64_extends | apply Extends.of_bind | apply Extends.of_ite
    | apply Extends.of_dite | intro _ | dsimp only []) | split)

theorem tcg_gen_mulu2_i64_extends (T : TCGTarget) (fuel : Nat) (rl rh arg1 arg2 : TCGv_i64) :
    Extends (tcg_gen_mulu2_i64 T fuel rl rh arg1 arg2) := by
  unfold tcg_gen_mulu2_i64
  repeat' (first | with_reducible (first
    | exact Extends.of_pure _ | exact Extends.of_abort | exact Extends.of_assert _
    | exact Extends.of_emit _ _ | exact Extends.of_new_i32 | exact Extends.of_cflags
    | apply tcg_gen_op3_extends | apply tcg_gen_op4_extends | apply gen_helper_i64_extends
    | apply tcg_temp_new_i64_extends | apply tcg_temp_free_i64_extends
    | apply tcg_gen_mov_i64_extends | apply tcg_gen_mul_i64_extends | apply Extends.of_bind
    | apply Extends.of_ite | apply Extends.of_dite | intro _ | dsimp only []) | split)

theorem tcg_gen_muls2_i64_extends (T : TCGTarget) (fuel : Nat) (rl rh arg1 arg2 : TCGv_i64) :
    Extends (tcg_gen_muls2_i64 T fuel rl rh arg1 arg2) := by
  unfold tcg_gen_muls2_i64
  repeat' (first | with_reducible (first
    | exact Extends.of_pure _ | exact Extends.of_abort | exact Extends.of_assert _
    | exact Extends.of_emit _ _ | exact Extends.of_new_i32 | exact Extends.of_cflags
    | apply tcg_gen_op3_extends | apply tcg_gen_op4_extends | apply gen_helper_i64_extends
    | apply tcg_temp_new_i64_extends | apply tcg_temp_free_i64_extends
    | apply tcg_gen_mov_i64_extends | apply tcg_gen_and_i64_extends
    | apply tcg_gen_sub_i64_extends | apply tcg_gen_sari_i64_extends
    | apply tcg_gen_mul_i64_extends | apply tcg_gen_mulu2_i64_extends | apply Extends.of_bind
    | apply Extends.of_ite | apply Extends.of_dite | intro _ | dsimp only []) | split)

theorem tcg_gen_mb_extends (mb_type : Nat) :
    Extends (tcg_gen_mb mb_type) := by
  unfold tcg_gen_mb
  repeat' (first | with_reducible (first
    | exact Extends.of_pure _ | exact Extends.of_abort | exact Extends.of_assert _
    | exact Extends.of_emit _ _ | exact Extends.of_new_i32 | exact Extends.of_cflags
    | apply tcg_gen_op1_extends | apply Extends.of_bind | apply Extends.of_ite
    | apply Extends.of_dite | intro _ | dsimp only []) | split)

theorem tcg_gen_req_mo_extends (T : TCGTarget) (type : Nat) :
    Extends (tcg_gen_req_mo T type) := by
  unfold tcg_gen_req_mo
  repeat' (first | with_reducible (first
    | exact Extends.of_pure _ | exact Extends.of_abort | exact Extends.of_assert _
    | exact Extends.of_emit _ _ | exact Extends.of_new_i32 | exact Extends.of_cflags
    | apply tcg_gen_mb_extends | apply Extends.of_bind | apply Extends.of_ite
    | apply Extends.of_dite | intro _ | dsimp only []) | split)

theorem get_alignment_bits_extends (T : TCGTarget) (op : Nat) :
    Extends (get_alignment_bits T op) := by
  unfold get_alignment_bits
  repeat' (first | with_reducible (first
    | exact Extends.of_pure _ | exact Extends.of_abort | exact Extends.of_assert _
    | exact Extends.of_emit _ _ | exact Extends.of_new_i32 | exact Extends.of_cflags
    | apply Extends.of_bind | apply Extends.of_ite | apply Extends.of_dite | intro _
    | dsimp only []) | split)

theorem tcg_canonicalize_memop_extends (T : TCGTarget) (op : Nat) (is64 st : Bool) :
    Extends (tcg_canonicalize_memop T op is64 st) := by
  unfold tcg_canonicalize_memop
  repeat' (first | with_reducible (first
    | exact Extends.of_pure _ | exact Extends.of_abort | exact Extends.of_assert _
    | exact Extends.of_emit _ _ | exact Extends.of_new_i32 | exact Extends.of_cflags
    | apply get_alignment_bits_extends | apply Extends.of_bind | apply Extends.of_ite
    | apply Extends.of_dite | intro _ | dsimp only []) | split)

theorem tcg_temp_new_cap_checked_extends (T : TCGTarget) :
    Extends (tcg_temp_new_cap_checked T) := by
  unfold tcg_temp_new_cap_checked
  repeat' (first | with_reducible (first
    | exact Extends.of_pure _ | exact Extends.of_abort | exact Extends.of_assert _
    | exact Extends.of_emit _ _ | exact Extends.of_new_i32 | exact Extends.of_cflags
    | apply tcg_temp_new_i64_extends | apply Extends.of_bind | apply Extends.of_ite
    | apply Extends.of_dite | intro _ | dsimp only []) | split)

theorem tcg_gen_mov_tl_extends (T : TCGTarget) (ret arg : TCGv) :
    Extends (tcg_gen_mov_tl T ret arg) := by
  unfold tcg_gen_mov_tl
  repeat' (first | with_reducible (first
    | exact Extends.of_pure _ | exact Extends.of_abort | exact Extends.of_assert _
    | exact Extends.of_emit _ _ | exact Extends.of_new_i32 | exact Extends.of_cflags
    | apply tcg_gen_mov_i32_extends | apply tcg_gen_mov_i64_extends | apply Extends.of_bind
    | apply Extends.of_ite | apply Extends.of_dite | intro _ | dsimp only []) | split)

theorem gen_ldst_i32_extends (T : TCGTarget) (opc : TCGOpcode) (val : TCGv_i32) (addr : TCGv) (memop idx : Nat) :
    Extends (gen_ldst_i32 T opc val addr memop idx) := by
  unfold gen_ldst_i32
  repeat' (first | with_reducible (first
    | exact Extends.of_pure _ | exact Extends.of_abort | exact Extends.of_assert _
    | exact Extends.of_emit _ _ | exact Extends.of_new_i32 | exact Extends.of_cflags
    | apply tcg_gen_op3_extends | apply tcg_gen_op4_extends | apply Extends.of_bind
    | apply Extends.of_ite | apply Extends.of_dite | intro _ | dsimp only []) | split)

theorem gen_ldst_i64_extends (T : TCGTarget) (opc : TCGOpcode) (val : TCGv_i64) (addr : TCGv) (memop idx : Nat) :
    Extends (gen_ldst_i64 T opc val addr memop idx) := by
  unfold gen_ldst_i64
  repeat' (first | with_reducible (first
    | exact Extends.of_pure _ | exact Extends.of_abort | exact Extends.of_assert _
    | exact Extends.of_emit _ _ | exact Extends.of_new_i32 | exact Extends.of_cflags
    | apply tcg_gen_op3_extends | apply tcg_gen_op4_extends | apply tcg_gen_op5_extends
    | apply Extends.of_bind | apply Extends.of_ite | apply Extends.of_dite | intro _
    | dsimp only []) | split)

theorem trace_guest_mem_before_tcg_extends (T : TCGTarget) (addr : TCGv) (info : Nat) :
    Extends (trace_guest_mem_before_tcg T addr info) := by
  unfold trace_guest_mem_before_tcg
  repeat' (first | with_reducible (first
    | exact Extends.of_pure _ | exact Extends.of_abort | exact Extends.of_assert _
    | exact Extends.of_emit _ _ | exact Extends.of_new_i32 | exact Extends.of_cflags
    | apply tcg_temp_free_i32_extends | apply tcg_const_i32_extends | apply tcg_gen_callN_extends
    | apply Extends.of_bind | apply Extends.of_ite | apply Extends.of_dite | intro _
    | dsimp only []) | split)

theorem plugin_prep_mem_callbacks_extends (T : TCGTarget) (vaddr : TCGv) :
    Extends (plugin_prep_mem_callbacks T vaddr) := by
  unfold plugin_prep_mem_callbacks
  repeat' (first | with_reducible (first
    | exact Extends.of_pure _ | exact Extends.of_abort | exact Extends.of_assert _
    | exact Extends.of_emit _ _ | exact Extends.of_new_i32 | exact Extends.of_cflags
    | apply tcg_temp_new_cap_checked_extends | apply tcg_gen_mov_tl_extends
    | apply Extends.of_bind | apply Extends.of_ite | apply Extends.of_dite | intro _
    | dsimp only []) | split)

theorem plugin_gen_empty_mem_callback_extends (addr : TCGv) (info : Nat) :
    Extends (plugin_gen_empty_mem_callback addr info) := by
  unfold plugin_gen_empty_mem_callback
  repeat' (first | with_reducible (first
    | exact Extends.of_pure _ | exact Extends.of_abort | exact Extends.of_assert _
    | exact Extends.of_emit _ _ | exact Extends.of_new_i32 | exact Extends.of_cflags
    | apply tcg_gen_callN_extends | apply Extends.of_bind | apply Extends.of_ite
    | apply Extends.of_dite | intro _ | dsimp only []) | split)

theorem plugin_gen_mem_callbacks_extends (T : TCGTarget) (vaddr : TCGv) (info : Nat) :
    Extends (plugin_gen_mem_callbacks T vaddr info) := by
  unfold plugin_gen_mem_callbacks
  repeat' (first | with_reducible (first
    | exact Extends.of_pure _ | exact Extends.of_abort | exact Extends.of_assert _
    | exact Extends.of_emit _ _ | exact Extends.of_new_i32 | exact Extends.of_cflags
    | apply plugin_gen_empty_mem_callback_extends | apply Extends.of_bind | apply Extends.of_ite
    | apply Extends.of_dite | intro _ | dsimp only []) | split)

theorem gen_cheri_invalidate_tags_extends (T : TCGTarget) (out_addr : TCGv) (memop : TCGv_i32) (idx : Nat) :
    Extends (gen_cheri_invalidate_tags T out_addr memop idx) := by
  unfold gen_cheri_invalidate_tags
  repeat' (first | with_reducible (first
    | exact Extends.of_pure _ | exact Extends.of_abort | exact Extends.of_assert _
    | exact Extends.of_emit _ _ | exact Extends.of_new_i32 | exact Extends.of_cflags
    | apply tcg_temp_free_i32_extends | apply tcg_const_i32_extends | apply tcg_gen_callN_extends
    | apply Extends.of_bind | apply Extends.of_ite | apply Extends.of_dite | intro _
    | dsimp only []) | split)

theorem gen_cheri_break_loadlink_extends (addr : TCGv) (op : TCGv_i32) :
    Extends (gen_cheri_break_loadlink addr op) := by
  unfold gen_cheri_break_loadlink
  repeat' (first | with_reducible (first
    | exact Extends.of_pure _ | exact Extends.of_abort | exact Extends.of_assert _
    | exact Extends.of_emit _ _ | exact Extends.of_new_i32 | exact Extends.of_cflags
    | apply tcg_gen_callN_extends | apply Extends.of_bind | apply Extends.of_ite
    | apply Extends.of_dite | intro _ | dsimp only []) | split)

theorem gen_rvfi_dii_set_field_extends (T : TCGTarget) (field : RvfiField) (arg : Nat) :
    Extends (gen_rvfi_dii_set_field T field arg) := by
  unfold gen_rvfi_dii_set_field
  repeat' (first | with_reducible (first
    | exact Extends.of_pure _ | exact Extends.of_abort | exact Extends.of_assert _
    | exact Extends.of_emit _ _ | exact Extends.of_new_i32 | exact Extends.of_cflags
    | apply tcg_gen_callN_extends | apply Extends.of_bind | apply Extends.of_ite
    | apply Extends.of_dite | intro _ | dsimp only []) | split)

theorem gen_rvfi_dii_set_field_const_i32_extends (T : TCGTarget) (field : RvfiField) (c : Nat) :
    Extends (gen_rvfi_dii_set_field_const_i32 T field c) := by
  unfold gen_rvfi_dii_set_field_const_i32
  repeat' (first | with_reducible (first
    | exact Extends.of_pure _ | exact Extends.of_abort | exact Extends.of_assert _
    | exact Extends.of_emit _ _ | exact Extends.of_new_i32 | exact Extends.of_cflags
    | apply tcg_gen_callN_extends | apply Extends.of_bind | apply Extends.of_ite
    | apply Extends.of_dite | intro _ | dsimp only []) | split)

theorem tcg_gen_qemu_ld_i32_with_checked_addr_extends (T : TCGTarget) (val : TCGv_i32) (addr : TCGv) (idx memop : Nat) :
    Extends (tcg_gen_qemu_ld_i32_with_checked_addr T val addr idx memop) := by
  unfold tcg_gen_qemu_ld_i32_with_checked_addr
  repeat' (first | with_reducible (first
    | exact Extends.of_pure _ | exact Extends.of_abort | exact Extends.of_assert _
    | exact Extends.of_emit _ _ | exact Extends.of_new_i32 | exact Extends.of_cflags
    | apply tcg_temp_free_i32_extends | apply tcg_const_i32_extends
    | apply tcg_gen_ext16s_i32_extends | apply tcg_gen_bswap16_i32_extends
    | apply tcg_gen_bswap32_i32_extends | apply tcg_gen_callN_extends
    | apply tcg_gen_req_mo_extends | apply tcg_canonicalize_memop_extends
    | apply tcg_temp_new_cap_checked_extends | apply tcg_gen_mov_tl_extends
    | apply gen_ldst_i32_extends | apply trace_guest_mem_before_tcg_extends
    | apply plugin_prep_mem_callbacks_extends | apply plugin_gen_mem_callbacks_extends
    | apply gen_rvfi_dii_set_field_extends | apply gen_rvfi_dii_set_field_const_i32_extends
    | apply Extends.of_bind | apply Extends.of_ite | apply Extends.of_dite | intro _
    | dsimp only []) | split)

theorem handle_conditional_invalidate_extends (T : TCGTarget) (checked_addr : TCGv) (memop : Nat) (store_happens : TCGv_i32) :
    Extends (handle_conditional_invalidate T checked_addr memop store_happens) := by
  unfold handle_conditional_invalidate
  repeat' (first | with_reducible (first
    | exact Extends.of_pure _ | exact Extends.of_abort | exact Extends.of_assert _
    | exact Extends.of_emit _ _ | exact Extends.of_new_i32 | exact Extends.of_cflags
    | apply tcg_temp_free_i32_extends | apply tcg_const_i32_extends | apply tcg_gen_callN_extends
    | apply gen_cheri_break_loadlink_extends | apply Extends.of_bind | apply Extends.of_ite
    | apply Extends.of_dite | intro _ | dsimp only []) | split)

theorem tcg_gen_qemu_st_i32_with_checked_addr_cond_invalidate_extends (T : TCGTarget) (val : TCGv_i32) (addr : TCGv) (idx memop : Nat) (invalidate : Bool) :
    Extends (tcg_gen_qemu_st_i32_with_checked_addr_cond_invalidate T val addr idx memop invalidate) := by
  unfold tcg_gen_qemu_st_i32_with_checked_addr_cond_invalidate
  repeat' (first | with_reducible (first
    | exact Extends.of_pure _ | exact Extends.of_abort | exact Extends.of_assert _
    | exact Extends.of_emit _ _ | exact Extends.of_new_i32 | exact Extends.of_cflags
    | apply tcg_temp_free_i32_extends | apply tcg_const_i32_extends
    | apply tcg_gen_ext16u_i32_extends | apply tcg_gen_bswap16_i32_extends
    | apply tcg_gen_bswap32_i32_extends | apply tcg_gen_callN_extends
    | apply tcg_gen_req_mo_extends | apply tcg_canonicalize_memop_extends
    | apply gen_ldst_i32_extends | apply trace_guest_mem_before_tcg_extends
    | apply plugin_prep_mem_callbacks_extends | apply plugin_gen_mem_callbacks_extends
    | apply gen_cheri_invalidate_tags_extends | apply gen_cheri_break_loadlink_extends
    | apply gen_rvfi_dii_set_field_extends | apply gen_rvfi_dii_set_field_const_i32_extends
    | apply Extends.of_bind | apply Extends.of_ite | apply Extends.of_dite | intro _
    | dsimp only []) | split)

theorem tcg_gen_qemu_st_i32_with_checked_addr_extends (T : TCGTarget) (val : TCGv_i32) (addr : TCGv) (idx memop : Nat) :
    Extends (tcg_gen_qemu_st_i32_with_checked_addr T val addr idx memop) := by
  unfold tcg_gen_qemu_st_i32_with_checked_addr
  repeat' (first | with_reducible (first
    | exact Extends.of_pure _ | exact Extends.of_abort | exact Extends.of_assert _
    | exact Extends.of_emit _ _ | exact Extends.of_new_i32 | exact Extends.of_cflags
    | apply tcg_gen_qemu_st_i32_with_checked_addr_cond_invalidate_extends | apply Extends.of_bind
    | apply Extends.of_ite | apply Extends.of_dite | intro _ | dsimp only []) | split)

theorem tcg_gen_qemu_ld_i64_with_checked_addr_extends (T : TCGTarget) (val : TCGv_i64) (addr : TCGv) (idx memop : Nat) :
    Extends (tcg_gen_qemu_ld_i64_with_checked_addr T val addr idx memop) := by
  unfold tcg_gen_qemu_ld_i64_with_checked_addr
  repeat' (first | with_reducible (first
    | exact Extends.of_pure _ | exact Extends.of_abort | exact Extends.of_assert _
    | exact Extends.of_emit _ _ | exact Extends.of_new_i32 | exact Extends.of_cflags
    | apply tcg_temp_free_i32_extends | apply tcg_gen_movi_i32_extends
    | apply tcg_const_i32_extends | apply tcg_gen_sari_i32_extends | apply tcg_gen_callN_extends
    | apply tcg_gen_ext16s_i64_extends | apply tcg_gen_ext32s_i64_extends
    | apply tcg_gen_bswap16_i64_extends | apply tcg_gen_bswap32_i64_extends
    | apply tcg_gen_bswap64_i64_extends | apply tcg_gen_req_mo_extends
    | apply tcg_canonicalize_memop_extends | apply tcg_temp_new_cap_checked_extends
    | apply tcg_gen_mov_tl_extends | apply gen_ldst_i64_extends
    | apply trace_guest_mem_before_tcg_extends | apply plugin_prep_mem_callbacks_extends
    | apply plugin_gen_mem_callbacks_extends | apply gen_rvfi_dii_set_field_extends
    | apply gen_rvfi_dii_set_field_const_i32_extends
    | apply tcg_gen_qemu_ld_i32_with_checked_addr_extends | apply Extends.of_bind
    | apply Extends.of_ite | apply Extends.of_dite | intro _ | dsimp only []) | split)

theorem tcg_gen_qemu_st_i64_with_checked_addr_cond_invalidate_extends (T : TCGTarget) (val : TCGv_i64) (addr : TCGv) (idx memop : Nat) (invalidate : Bool) :
    Extends (tcg_gen_qemu_st_i64_with_checked_addr_cond_invalidate T val addr idx memop invalidate) := by
  unfold tcg_gen_qemu_st_i64_with_checked_addr_cond_invalidate
  repeat' (first | with_reducible (first
    | exact Extends.of_pure _ | exact Extends.of_abort | exact Extends.of_assert _
    | exact Extends.of_emit _ _ | exact Extends.of_new_i32 | exact Extends.of_cflags
    | apply tcg_temp_free_i32_extends | apply tcg_const_i32_extends | apply tcg_gen_callN_extends
    | apply tcg_temp_new_i64_extends | apply tcg_gen_ext16u_i64_extends
    | apply tcg_gen_ext32u_i64_extends | apply tcg_gen_bswap16_i64_extends
    | apply tcg_gen_bswap32_i64_extends | apply tcg_gen_bswap64_i64_extends
    | apply tcg_gen_req_mo_extends | apply tcg_canonicalize_memop_extends
    | apply gen_ldst_i64_extends | apply trace_guest_mem_before_tcg_extends
    | apply plugin_prep_mem_callbacks_extends | apply plugin_gen_mem_callbacks_extends
    | apply gen_cheri_invalidate_tags_extends | apply gen_cheri_break_loadlink_extends
    | apply gen_rvfi_dii_set_field_extends | apply gen_rvfi_dii_set_field_const_i32_extends
    | apply tcg_gen_qemu_st_i32_with_checked_addr_cond_invalidate_extends | apply Extends.of_bind
    | apply Extends.of_ite | apply Extends.of_dite | intro _ | dsimp only []) | split)

theorem tcg_gen_qemu_st_i64_with_checked_addr_extends (T : TCGTarget) (val : TCGv_i64) (addr : TCGv) (idx memop : Nat) :
    Extends (tcg_gen_qemu_st_i64_with_checked_addr T val addr idx memop) := by
  unfold tcg_gen_qemu_st_i64_with_checked_addr
  repeat' (first | with_reducible (first
    | exact Extends.of_pure _ | exact Extends.of_abort | exact Extends.of_assert _
    | exact Extends.of_emit _ _ | exact Extends.of_new_i32 | exact Extends.of_cflags
    | apply tcg_gen_qemu_st_i64_with_checked_addr_cond_invalidate_extends | apply Extends.of_bind
    | apply Extends.of_ite | apply Extends.of_dite | intro _ | dsimp only []) | split)

theorem tcg_gen_ext_i32_extends (T : TCGTarget) (ret val : TCGv_i32) (opc : Nat) :
    Extends (tcg_gen_ext_i32 T ret val opc) := by
  unfold tcg_gen_ext_i32
  repeat' (first | with_reducible (first
    | exact Extends.of_pure _ | exact Extends.of_abort | exact Extends.of_assert _
    | exact Extends.of_emit _ _ | exact Extends.of_new_i32 | exact Extends.of_cflags
    | apply tcg_gen_mov_i32_extends | apply tcg_gen_ext8s_i32_extends
    | apply tcg_gen_ext16s_i32_extends | apply tcg_gen_ext8u_i32_extends
    | apply tcg_gen_ext16u_i32_extends | apply Extends.of_bind | apply Extends.of_ite
    | apply Extends.of_dite | intro _ | dsimp only []) | split)

theorem tcg_gen_ext_i64_extends (T : TCGTarget) (ret val : TCGv_i64) (opc : Nat) :
    Extends (tcg_gen_ext_i64 T ret val opc) := by
  unfold tcg_gen_ext_i64
  repeat' (first | with_reducible (first
    | exact Extends.of_pure _ | exact Extends.of_abort | exact Extends.of_assert _
    | exact Extends.of_emit _ _ | exact Extends.of_new_i32 | exact Extends.of_cflags
    | apply tcg_gen_mov_i64_extends | apply tcg_gen_ext8s_i64_extends
    | apply tcg_gen_ext16s_i64_extends | apply tcg_gen_ext32s_i64_extends
    | apply tcg_gen_ext8u_i64_extends | apply tcg_gen_ext16u_i64_extends
    | apply tcg_gen_ext32u_i64_extends | apply Extends.of_bind | apply Extends.of_ite
    | apply Extends.of_dite | intro _ | dsimp only []) | split)

theorem gen_helper_atomic_i32_extends (T : TCGTarget) (gen : AtomicRoutine) (ret : TCGv_i32) (addr : TCGv) (vals : List TCGv_i32) (oi : List TCGArg) :
    Extends (gen_helper_atomic_i32 T gen ret addr vals oi) := by
  unfold gen_helper_atomic_i32
  repeat' (first | with_reducible (first
    | exact Extends.of_pure _ | exact Extends.of_abort | exact Extends.of_assert _
    | exact Extends.of_emit _ _ | exact Extends.of_new_i32 | exact Extends.of_cflags
    | apply tcg_gen_callN_extends | apply Extends.of_bind | apply Extends.of_ite
    | apply Extends.of_dite | intro _ | dsimp only []) | split)

theorem gen_helper_atomic_i64_extends (T : TCGTarget) (gen : AtomicRoutine) (ret : TCGv_i64) (addr : TCGv) (vals : List TCGv_i64) (oi : List TCGArg) :
    Extends (gen_helper_atomic_i64 T gen ret addr vals oi) := by
  unfold gen_helper_atomic_i64
  repeat' (first | with_reducible (first
    | exact Extends.of_pure _ | exact Extends.of_abort | exact Extends.of_assert _
    | exact Extends.of_emit _ _ | exact Extends.of_new_i32 | exact Extends.of_cflags
    | apply tcg_gen_callN_extends | apply Extends.of_bind | apply Extends.of_ite
    | apply Extends.of_dite | intro _ | dsimp only []) | split)

theorem gen_helper_exit_atomic_extends  :
    Extends (gen_helper_exit_atomic ) := by
  unfold gen_helper_exit_atomic
  repeat' (first | with_reducible (first
    | exact Extends.of_pure _ | exact Extends.of_abort | exact Extends.of_assert _
    | exact Extends.of_emit _ _ | exact Extends.of_new_i32 | exact Extends.of_cflags
    | apply tcg_gen_callN_extends | apply Extends.of_bind | apply Extends.of_ite
    | apply Extends.of_dite | intro _ | dsimp only []) | split)

theorem tcg_gen_atomic_cmpxchg_i32_with_checked_addr_extends (T : TCGTarget) (retv : TCGv_i32) (checked_addr : TCGv) (cmpv newv : TCGv_i32) (idx memop : Nat) :
    Extends (tcg_gen_atomic_cmpxchg_i32_with_checked_addr T retv checked_addr cmpv newv idx memop) := by
  unfold tcg_gen_atomic_cmpxchg_i32_with_checked_addr
  repeat' (first | with_reducible (first
    | exact Extends.of_pure _ | exact Extends.of_abort | exact Extends.of_assert _
    | exact Extends.of_emit _ _ | exact Extends.of_new_i32 | exact Extends.of_cflags
    | apply tcg_temp_free_i32_extends | apply tcg_gen_mov_i32_extends
    | apply tcg_const_i32_extends | apply tcg_gen_setcond_i32_extends
    | apply tcg_gen_movcond_i32_extends | apply tcg_canonicalize_memop_extends
    | apply tcg_gen_qemu_ld_i32_with_checked_addr_extends
    | apply handle_conditional_invalidate_extends
    | apply tcg_gen_qemu_st_i32_with_checked_addr_cond_invalidate_extends
    | apply tcg_gen_ext_i32_extends | apply gen_helper_atomic_i32_extends | apply Extends.of_bind
    | apply Extends.of_ite | apply Extends.of_dite | intro _ | dsimp only []) | split)

theorem tcg_gen_atomic_cmpxchg_i64_with_checked_addr_extends (T : TCGTarget) (retv : TCGv_i64) (checked_addr : TCGv) (cmpv newv : TCGv_i64) (idx memop : Nat) :
    Extends (tcg_gen_atomic_cmpxchg_i64_with_checked_addr T retv checked_addr cmpv newv idx memop) := by
  unfold tcg_gen_atomic_cmpxchg_i64_with_checked_addr
  repeat' (first | with_reducible (first
    | exact Extends.of_pure _ | exact Extends.of_abort | exact Extends.of_assert _
    | exact Extends.of_emit _ _ | exact Extends.of_new_i32 | exact Extends.of_cflags
    | apply tcg_temp_free_i32_extends | apply tcg_const_i32_extends
    | apply tcg_temp_new_i64_extends | apply tcg_temp_free_i64_extends
    | apply tcg_gen_mov_i64_extends | apply tcg_gen_movi_i64_extends
    | apply tcg_gen_setcond_i64_extends | apply tcg_gen_extrl_i64_i32_extends
    | apply tcg_gen_extu_i32_i64_extends | apply tcg_gen_movcond_i64_extends
    | apply tcg_canonicalize_memop_extends | apply handle_conditional_invalidate_extends
    | apply tcg_gen_qemu_ld_i64_with_checked_addr_extends
    | apply tcg_gen_qemu_st_i64_with_checked_addr_cond_invalidate_extends
    | apply tcg_gen_ext_i64_extends | apply gen_helper_atomic_i64_extends
    | apply gen_helper_exit_atomic_extends
    | apply tcg_gen_atomic_cmpxchg_i32_with_checked_addr_extends | apply Extends.of_bind
    | apply Extends.of_ite | apply Extends.of_dite | intro _ | dsimp only []) | split)

theorem do_nonatomic_op_i32_extends (T : TCGTarget) (ret : TCGv_i32) (checked_addr : TCGv) (val : TCGv_i32) (idx memop : Nat) (new_val : Bool) (gen : TCGv_i32 → TCGv_i32 → TCGv_i32 → Gen Unit) (gen_sign : GEN_OP_SIGN) (hgen : ∀ a b c, Extends (gen a b c)) :
    Extends (do_nonatomic_op_i32 T ret checked_addr val idx memop new_val gen gen_sign) := by
  unfold do_nonatomic_op_i32
  repeat' (first | with_reducible (first
    | exact Extends.of_pure _ | exact Extends.of_abort | exact Extends.of_assert _
    | exact Extends.of_emit _ _ | exact Extends.of_new_i32 | exact Extends.of_cflags
    | apply tcg_temp_free_i32_extends | apply tcg_canonicalize_memop_extends
    | apply tcg_gen_qemu_ld_i32_with_checked_addr_extends
    | apply tcg_gen_qemu_st_i32_with_checked_addr_extends | apply tcg_gen_ext_i32_extends
    | apply hgen | apply Extends.of_bind | apply Extends.of_ite | apply Extends.of_dite | intro _
    | dsimp only []) | split)

theorem do_atomic_op_i32_extends (T : TCGTarget) (ret : TCGv_i32) (checked_addr : TCGv) (val : TCGv_i32) (idx memop : Nat) (table : Nat → Option AtomicRoutine) :
    Extends (do_atomic_op_i32 T ret checked_addr val idx memop table) := by
  unfold do_atomic_op_i32
  repeat' (first | with_reducible (first
    | exact Extends.of_pure _ | exact Extends.of_abort | exact Extends.of_assert _
    | exact Extends.of_emit _ _ | exact Extends.of_new_i32 | exact Extends.of_cflags
    | apply tcg_temp_free_i32_extends | apply tcg_const_i32_extends
    | apply tcg_canonicalize_memop_extends | apply gen_cheri_invalidate_tags_extends
    | apply gen_cheri_break_loadlink_extends | apply tcg_gen_ext_i32_extends
    | apply gen_helper_atomic_i32_extends | apply Extends.of_bind | apply Extends.of_ite
    | apply Extends.of_dite | intro _ | dsimp only []) | split)

theorem do_nonatomic_op_i64_extends (T : TCGTarget) (ret : TCGv_i64) (checked_addr : TCGv) (val : TCGv_i64) (idx memop : Nat) (new_val : Bool) (gen : TCGv_i64 → TCGv_i64 → TCGv_i64 → Gen Unit) (gen_sign : GEN_OP_SIGN) (hgen : ∀ a b c, Extends (gen a b c)) :
    Extends (do_nonatomic_op_i64 T ret checked_addr val idx memop new_val gen gen_sign) := by
  unfold do_nonatomic_op_i64
  repeat' (first | with_reducible (first
    | exact Extends.of_pure _ | exact Extends.of_abort | exact Extends.of_assert _
    | exact Extends.of_emit _ _ | exact Extends.of_new_i32 | exact Extends.of_cflags
    | apply tcg_temp_new_i64_extends | apply tcg_temp_free_i64_extends
    | apply tcg_canonicalize_memop_extends | apply tcg_gen_qemu_ld_i64_with_checked_addr_extends
    | apply tcg_gen_qemu_st_i64_with_checked_addr_extends | apply tcg_gen_ext_i64_extends
    | apply hgen | apply Extends.of_bind | apply Extends.of_ite | apply Extends.of_dite | intro _
    | dsimp only []) | split)

theorem do_atomic_op_i64_extends (T : TCGTarget) (ret : TCGv_i64) (checked_addr : TCGv) (val : TCGv_i64) (idx memop : Nat) (table : Nat → Option AtomicRoutine) :
    Extends (do_atomic_op_i64 T ret checked_addr val idx memop table) := by
  unfold do_atomic_op_i64
  repeat' (first | with_reducible (first
    | exact Extends.of_pure _ | exact Extends.of_abort | exact Extends.of_assert _
    | exact Extends.of_emit _ _ | exact Extends.of_new_i32 | exact Extends.of_cflags
    | apply tcg_temp_free_i32_extends | apply tcg_const_i32_extends
    | apply tcg_gen_movi_i64_extends | apply tcg_gen_extrl_i64_i32_extends
    | apply tcg_gen_extu_i32_i64_extends | apply tcg_canonicalize_memop_extends
    | apply gen_cheri_invalidate_tags_extends | apply gen_cheri_break_loadlink_extends
    | apply tcg_gen_ext_i64_extends | apply gen_helper_atomic_i64_extends
    | apply gen_helper_exit_atomic_extends | apply do_atomic_op_i32_extends
    | apply Extends.of_bind | apply Extends.of_ite | apply Extends.of_dite | intro _
    | dsimp only []) | split)

theorem tcg_gen_mov2_i32_extends (r a b : TCGv_i32) :
    Extends (tcg_gen_mov2_i32 r a b) := by
  unfold tcg_gen_mov2_i32
  repeat' (first | with_reducible (first
    | exact Extends.of_pure _ | exact Extends.of_abort | exact Extends.of_assert _
    | exact Extends.of_emit _ _ | exact Extends.of_new_i32 | exact Extends.of_cflags
    | apply tcg_gen_mov_i32_extends | apply Extends.of_bind | apply Extends.of_ite
    | apply Extends.of_dite | intro _ | dsimp only []) | split)

theorem AtomicName.OP_i32_extends (T : TCGTarget) (NAME : AtomicName) (a b c : Nat) :
    Extends (NAME.OP_i32 T a b c) := by
  cases NAME
  all_goals simp only [AtomicName.OP_i32]
  all_goals with_reducible first
    | exact tcg_gen_add_i32_extends _ _ _ | exact tcg_gen_and_i32_extends _ _ _
    | exact tcg_gen_or_i32_extends _ _ _ | exact tcg_gen_xor_i32_extends _ _ _
    | exact tcg_gen_smin_i32_extends T _ _ _ | exact tcg_gen_umin_i32_extends T _ _ _
    | exact tcg_gen_smax_i32_extends T _ _ _ | exact tcg_gen_umax_i32_extends T _ _ _
    | exact tcg_gen_mov2_i32_extends _ _ _

theorem tcg_gen_mov2_i64_extends (T : TCGTarget) (r a b : TCGv_i64) :
    Extends (tcg_gen_mov2_i64 T r a b) := by
  unfold tcg_gen_mov2_i64
  repeat' (first | with_reducible (first
    | exact Extends.of_pure _ | exact Extends.of_abort | exact Extends.of_assert _
    | exact Extends.of_emit _ _ | exact Extends.of_new_i32 | exact Extends.of_cflags
    | apply tcg_gen_mov_i64_extends | apply Extends.of_bind | apply Extends.of_ite
    | apply Extends.of_dite | intro _ | dsimp only []) | split)

theorem AtomicName.OP_i64_extends (T : TCGTarget) (NAME : AtomicName) (a b c : Nat) :
    Extends (NAME.OP_i64 T a b c) := by
  cases NAME
  all_goals simp only [AtomicName.OP_i64]
  all_goals with_reducible first
    | exact tcg_gen_add_i64_extends T _ _ _ | exact tcg_gen_and_i64_extends T _ _ _
    | exact tcg_gen_or_i64_extends T _ _ _ | exact tcg_gen_xor_i64_extends T _ _ _
    | exact tcg_gen_smin_i64_extends T _ _ _ | exact tcg_gen_umin_i64_extends T _ _ _
    | exact tcg_gen_smax_i64_extends T _ _ _ | exact tcg_gen_umax_i64_extends T _ _ _
    | exact tcg_gen_mov2_i64_extends T _ _ _

theorem tcg_gen_atomic_NAME_i32_extends (T : TCGTarget) (NAME : AtomicName) (ret : TCGv_i32) (addr : TCGv) (val : TCGv_i32) (idx memop : Nat) :
    Extends (tcg_gen_atomic_NAME_i32 T NAME ret addr val idx memop) := by
  unfold tcg_gen_atomic_NAME_i32
  repeat' (first | with_reducible (first
    | exact Extends.of_pure _ | exact Extends.of_abort | exact Extends.of_assert _
    | exact Extends.of_emit _ _ | exact Extends.of_new_i32 | exact Extends.of_cflags
    | apply do_nonatomic_op_i32_extends | apply do_atomic_op_i32_extends
    | apply AtomicName.OP_i32_extends | apply Extends.of_bind | apply Extends.of_ite
    | apply Extends.of_dite | intro _ | dsimp only []) | split)

theorem tcg_gen_atomic_NAME_i64_extends (T : TCGTarget) (NAME : AtomicName) (ret : TCGv_i64) (addr : TCGv) (val : TCGv_i64) (idx memop : Nat) :
    Extends (tcg_gen_atomic_NAME_i64 T NAME ret addr val idx memop) := by
  unfold tcg_gen_atomic_NAME_i64
  repeat' (first | with_reducible (first
    | exact Extends.of_pure _ | exact Extends.of_abort | exact Extends.of_assert _
    | exact Extends.of_emit _ _ | exact Extends.of_new_i32 | exact Extends.of_cflags
    | apply do_nonatomic_op_i64_extends | apply do_atomic_op_i64_extends
    | apply AtomicName.OP_i64_extends | apply Extends.of_bind | apply Extends.of_ite
    | apply Extends.of_dite | intro _ | dsimp only []) | split)

theorem tcg_gen_br_extends (l : TCGLabel) :
    Extends (tcg_gen_br l) := by
  unfold tcg_gen_br
  repeat' (first | with_reducible (first
    | exact Extends.of_pure _ | exact Extends.of_abort | exact Extends.of_assert _
    | exact Extends.of_emit _ _ | exact Extends.of_new_i32 | exact Extends.of_cflags
    | apply tcg_gen_op1_extends | apply Extends.of_bind | apply Extends.of_ite
    | apply Extends.of_dite | intro _ | dsimp only []) | split)

theorem tcg_gen_brcond_i32_extends (cond : TCGCond) (arg1 arg2 : TCGv_i32) (l : TCGLabel) :
    Extends (tcg_gen_brcond_i32 cond arg1 arg2 l) := by
  unfold tcg_gen_brcond_i32
  repeat' (first | with_reducible (first
    | exact Extends.of_pure _ | exact Extends.of_abort | exact Extends.of_assert _
    | exact Extends.of_emit _ _ | exact Extends.of_new_i32 | exact Extends.of_cflags
    | apply tcg_gen_op4_extends | apply tcg_gen_br_extends | apply Extends.of_bind
    | apply Extends.of_ite | apply Extends.of_dite | intro _ | dsimp only []) | split)

theorem tcg_gen_brcondi_i32_extends (cond : TCGCond) (arg1 : TCGv_i32) (arg2 : Nat) (l : TCGLabel) :
    Extends (tcg_gen_brcondi_i32 cond arg1 arg2 l) := by
  unfold tcg_gen_brcondi_i32
  repeat' (first | with_reducible (first
    | exact Extends.of_pure _ | exact Extends.of_abort | exact Extends.of_assert _
    | exact Extends.of_emit _ _ | exact Extends.of_new_i32 | exact Extends.of_cflags
    | apply tcg_temp_free_i32_extends | apply tcg_const_i32_extends | apply tcg_gen_br_extends
    | apply tcg_gen_brcond_i32_extends | apply Extends.of_bind | apply Extends.of_ite
    | apply Extends.of_dite | intro _ | dsimp only []) | split)

theorem tcg_gen_setcondi_i32_extends (cond : TCGCond) (ret arg1 : TCGv_i32) (arg2 : Nat) :
    Extends (tcg_gen_setcondi_i32 cond ret arg1 arg2) := by
  unfold tcg_gen_setcondi_i32
  repeat' (first | with_reducible (first
    | exact Extends.of_pure _ | exact Extends.of_abort | exact Extends.of_assert _
    | exact Extends.of_emit _ _ | exact Extends.of_new_i32 | exact Extends.of_cflags
    | apply tcg_temp_free_i32_extends | apply tcg_const_i32_extends
    | apply tcg_gen_setcond_i32_extends | apply Extends.of_bind | apply Extends.of_ite
    | apply Extends.of_dite | intro _ | dsimp only []) | split)

theorem gen_helper_div_i32_extends (ret arg1 arg2 : TCGv_i32) :
    Extends (gen_helper_div_i32 ret arg1 arg2) := by
  unfold gen_helper_div_i32
  repeat' (first | with_reducible (first
    | exact Extends.of_pure _ | exact Extends.of_abort | exact Extends.of_assert _
    | exact Extends.of_emit _ _ | exact Extends.of_new_i32 | exact Extends.of_cflags
    | apply tcg_gen_callN_extends | apply Extends.of_bind | apply Extends.of_ite
    | apply Extends.of_dite | intro _ | dsimp only []) | split)

theorem gen_helper_rem_i32_extends (ret arg1 arg2 : TCGv_i32) :
    Extends (gen_helper_rem_i32 ret arg1 arg2) := by
  unfold gen_helper_rem_i32
  repeat' (first | with_reducible (first
    | exact Extends.of_pure _ | exact Extends.of_abort | exact Extends.of_assert _
    | exact Extends.of_emit _ _ | exact Extends.of_new_i32 | exact Extends.of_cflags
    | apply tcg_gen_callN_extends | apply Extends.of_bind | apply Extends.of_ite
    | apply Extends.of_dite | intro _ | dsimp only []) | split)

theorem gen_helper_divu_i32_extends (ret arg1 arg2 : TCGv_i32) :
    Extends (gen_helper_divu_i32 ret arg1 arg2) := by
  unfold gen_helper_divu_i32
  repeat' (first | with_reducible (first
    | exact Extends.of_pure _ | exact Extends.of_abort | exact Extends.of_assert _
    | exact Extends.of_emit _ _ | exact Extends.of_new_i32 | exact Extends.of_cflags
    | apply tcg_gen_callN_extends | apply Extends.of_bind | apply Extends.of_ite
    | apply Extends.of_dite | intro _ | dsimp only []) | split)

theorem gen_helper_remu_i32_extends (ret arg1 arg2 : TCGv_i32) :
    Extends (gen_helper_remu_i32 ret arg1 arg2) := by
  unfold gen_helper_remu_i32
  repeat' (first | with_reducible (first
    | exact Extends.of_pure _ | exact Extends.of_abort | exact Extends.of_assert _
    | exact Extends.of_emit _ _ | exact Extends.of_new_i32 | exact Extends.of_cflags
    | apply tcg_gen_callN_extends | apply Extends.of_bind | apply Extends.of_ite
    | apply Extends.of_dite | intro _ | dsimp only []) | split)

theorem gen_helper_clrsb_i32_extends (ret arg : TCGv_i32) :
    Extends (gen_helper_clrsb_i32 ret arg) := by
  unfold gen_helper_clrsb_i32
  repeat' (first | with_reducible (first
    | exact Extends.of_pure _ | exact Extends.of_abort | exact Extends.of_assert _
    | exact Extends.of_emit _ _ | exact Extends.of_new_i32 | exact Extends.of_cflags
    | apply tcg_gen_callN_extends | apply Extends.of_bind | apply Extends.of_ite
    | apply Extends.of_dite | intro _ | dsimp only []) | split)

theorem gen_helper_div_i64_extends (T : TCGTarget) (ret arg1 arg2 : TCGv_i64) :
    Extends (gen_helper_div_i64 T ret arg1 arg2) := by
  unfold gen_helper_div_i64
  repeat' (first | with_reducible (first
    | exact Extends.of_pure _ | exact Extends.of_abort | exact Extends.of_assert _
    | exact Extends.of_emit _ _ | exact Extends.of_new_i32 | exact Extends.of_cflags
    | apply gen_helper_i64_extends | apply Extends.of_bind | apply Extends.of_ite
    | apply Extends.of_dite | intro _ | dsimp only []) | split)

theorem gen_helper_rem_i64_extends (T : TCGTarget) (ret arg1 arg2 : TCGv_i64) :
    Extends (gen_helper_rem_i64 T ret arg1 arg2) := by
  unfold gen_helper_rem_i64
  repeat' (first | with_reducible (first
    | exact Extends.of_pure _ | exact Extends.of_abort | exact Extends.of_assert _
    | exact Extends.of_emit _ _ | exact Extends.of_new_i32 | exact Extends.of_cflags
    | apply gen_helper_i64_extends | apply Extends.of_bind | apply Extends.of_ite
    | apply Extends.of_dite | intro _ | dsimp only []) | split)

theorem gen_helper_divu_i64_extends (T : TCGTarget) (ret arg1 arg2 : TCGv_i64) :
    Extends (gen_helper_divu_i64 T ret arg1 arg2) := by
  unfold gen_helper_divu_i64
  repeat' (first | with_reducible (first
    | exact Extends.of_pure _ | exact Extends.of_abort | exact Extends.of_assert _
    | exact Extends.of_emit _ _ | exact Extends.of_new_i32 | exact Extends.of_cflags
    | apply gen_helper_i64_extends | apply Extends.of_bind | apply Extends.of_ite
    | apply Extends.of_dite | intro _ | dsimp only []) | split)

theorem gen_helper_remu_i64_extends (T : TCGTarget) (ret arg1 arg2 : TCGv_i64) :
    Extends (gen_helper_remu_i64 T ret arg1 arg2) := by
  unfold gen_helper_remu_i64
  repeat' (first | with_reducible (first
    | exact Extends.of_pure _ | exact Extends.of_abort | exact Extends.of_assert _
    | exact Extends.of_emit _ _ | exact Extends.of_new_i32 | exact Extends.of_cflags
    | apply gen_helper_i64_extends | apply Extends.of_bind | apply Extends.of_ite
    | apply Extends.of_dite | intro _ | dsimp only []) | split)

theorem gen_helper_clrsb_i64_extends (T : TCGTarget) (ret arg : TCGv_i64) :
    Extends (gen_helper_clrsb_i64 T ret arg) := by
  unfold gen_helper_clrsb_i64
  repeat' (first | with_reducible (first
    | exact Extends.of_pure _ | exact Extends.of_abort | exact Extends.of_assert _
    | exact Extends.of_emit _ _ | exact Extends.of_new_i32 | exact Extends.of_cflags
    | apply tcg_gen_callN_extends | apply Extends.of_bind | apply Extends.of_ite
    | apply Extends.of_dite | intro _ | dsimp only []) | split)

theorem tcg_gen_div_i32_extends (T : TCGTarget) (ret arg1 arg2 : TCGv_i32) :
    Extends (tcg_gen_div_i32 T ret arg1 arg2) := by
  unfold tcg_gen_div_i32
  repeat' (first | with_reducible (first
    | exact Extends.of_pure _ | exact Extends.of_abort | exact Extends.of_assert _
    | exact Extends.of_emit _ _ | exact Extends.of_new_i32 | exact Extends.of_cflags
    | apply tcg_gen_op3_extends | apply tcg_gen_op5_extends | apply tcg_temp_free_i32_extends
    | apply tcg_gen_sari_i32_extends | apply gen_helper_div_i32_extends | apply Extends.of_bind
    | apply Extends.of_ite | apply Extends.of_dite | intro _ | dsimp only []) | split)

theorem tcg_gen_rem_i32_extends (T : TCGTarget) (ret arg1 arg2 : TCGv_i32) :
    Extends (tcg_gen_rem_i32 T ret arg1 arg2) := by
  unfold tcg_gen_rem_i32
  repeat' (first | with_reducible (first
    | exact Extends.of_pure _ | exact Extends.of_abort | exact Extends.of_assert _
    | exact Extends.of_emit _ _ | exact Extends.of_new_i32 | exact Extends.of_cflags
    | apply tcg_gen_op3_extends | apply tcg_gen_op5_extends | apply tcg_temp_free_i32_extends
    | apply tcg_gen_sub_i32_extends | apply tcg_gen_sari_i32_extends
    | apply tcg_gen_mul_i32_extends | apply gen_helper_rem_i32_extends | apply Extends.of_bind
    | apply Extends.of_ite | apply Extends.of_dite | intro _ | dsimp only []) | split)

theorem tcg_gen_divu_i32_extends (T : TCGTarget) (ret arg1 arg2 : TCGv_i32) :
    Extends (tcg_gen_divu_i32 T ret arg1 arg2) := by
  unfold tcg_gen_divu_i32
  repeat' (first | with_reducible (first
    | exact Extends.of_pure _ | exact Extends.of_abort | exact Extends.of_assert _
    | exact Extends.of_emit _ _ | exact Extends.of_new_i32 | exact Extends.of_cflags
    | apply tcg_gen_op3_extends | apply tcg_gen_op5_extends | apply tcg_temp_free_i32_extends
    | apply tcg_gen_movi_i32_extends | apply gen_helper_divu_i32_extends | apply Extends.of_bind
    | apply Extends.of_ite | apply Extends.of_dite | intro _ | dsimp only []) | split)

theorem tcg_gen_remu_i32_extends (T : TCGTarget) (ret arg1 arg2 : TCGv_i32) :
    Extends (tcg_gen_remu_i32 T ret arg1 arg2) := by
  unfold tcg_gen_remu_i32
  repeat' (first | with_reducible (first
    | exact Extends.of_pure _ | exact Extends.of_abort | exact Extends.of_assert _
    | exact Extends.of_emit _ _ | exact Extends.of_new_i32 | exact Extends.of_cflags
    | apply tcg_gen_op3_extends | apply tcg_gen_op5_extends | apply tcg_temp_free_i32_extends
    | apply tcg_gen_movi_i32_extends | apply tcg_gen_sub_i32_extends
    | apply tcg_gen_mul_i32_extends | apply gen_helper_remu_i32_extends | apply Extends.of_bind
    | apply Extends.of_ite | apply Extends.of_dite | intro _ | dsimp only []) | split)

theorem tcg_gen_eqv_i32_extends (T : TCGTarget) (ret arg1 arg2 : TCGv_i32) :
    Extends (tcg_gen_eqv_i32 T ret arg1 arg2) := by
  unfold tcg_gen_eqv_i32
  repeat' (first | with_reducible (first
    | exact Extends.of_pure _ | exact Extends.of_abort | exact Extends.of_assert _
    | exact Extends.of_emit _ _ | exact Extends.of_new_i32 | exact Extends.of_cflags
    | apply tcg_gen_op3_extends | apply tcg_gen_xor_i32_extends | apply tcg_gen_not_i32_extends
    | apply Extends.of_bind | apply Extends.of_ite | apply Extends.of_dite | intro _
    | dsimp only []) | split)

theorem tcg_gen_nand_i32_extends (T : TCGTarget) (ret arg1 arg2 : TCGv_i32) :
    Extends (tcg_gen_nand_i32 T ret arg1 arg2) := by
  unfold tcg_gen_nand_i32
  repeat' (first | with_reducible (first
    | exact Extends.of_pure _ | exact Extends.of_abort | exact Extends.of_assert _
    | exact Extends.of_emit _ _ | exact Extends.of_new_i32 | exact Extends.of_cflags
    | apply tcg_gen_op3_extends | apply tcg_gen_and_i32_extends | apply tcg_gen_not_i32_extends
    | apply Extends.of_bind | apply Extends.of_ite | apply Extends.of_dite | intro _
    | dsimp only []) | split)

theorem tcg_gen_nor_i32_extends (T : TCGTarget) (ret arg1 arg2 : TCGv_i32) :
    Extends (tcg_gen_nor_i32 T ret arg1 arg2) := by
  unfold tcg_gen_nor_i32
  repeat' (first | with_reducible (first
    | exact Extends.of_pure _ | exact Extends.of_abort | exact Extends.of_assert _
    | exact Extends.of_emit _ _ | exact Extends.of_new_i32 | exact Extends.of_cflags
    | apply tcg_gen_op3_extends | apply tcg_gen_or_i32_extends | apply tcg_gen_not_i32_extends
    | apply Extends.of_bind | apply Extends.of_ite | apply Extends.of_dite | intro _
    | dsimp only []) | split)

theorem tcg_gen_orc_i32_extends (T : TCGTarget) (ret arg1 arg2 : TCGv_i32) :
    Extends (tcg_gen_orc_i32 T ret arg1 arg2) := by
  unfold tcg_gen_orc_i32
  repeat' (first | with_reducible (first
    | exact Extends.of_pure _ | exact Extends.of_abort | exact Extends.of_assert _
    | exact Extends.of_emit _ _ | exact Extends.of_new_i32 | exact Extends.of_cflags
    | apply tcg_gen_op3_extends | apply tcg_temp_free_i32_extends | apply tcg_gen_or_i32_extends
    | apply tcg_gen_not_i32_extends | apply Extends.of_bind | apply Extends.of_ite
    | apply Extends.of_dite | intro _ | dsimp only []) | split)

theorem tcg_gen_clrsb_i32_extends (T : TCGTarget) (ret arg : TCGv_i32) :
    Extends (tcg_gen_clrsb_i32 T ret arg) := by
  unfold tcg_gen_clrsb_i32
  repeat' (first | with_reducible (first
    | exact Extends.of_pure _ | exact Extends.of_abort | exact Extends.of_assert _
    | exact Extends.of_emit _ _ | exact Extends.of_new_i32 | exact Extends.of_cflags
    | apply tcg_temp_free_i32_extends | apply tcg_gen_xor_i32_extends
    | apply tcg_gen_subi_i32_extends | apply tcg_gen_sari_i32_extends
    | apply tcg_gen_clzi_i32_extends | apply gen_helper_clrsb_i32_extends | apply Extends.of_bind
    | apply Extends.of_ite | apply Extends.of_dite | intro _ | dsimp only []) | split)

theorem tcg_gen_deposit_z_i32_extends (T : TCGTarget) (ret arg : TCGv_i32) (ofs len : Nat) :
    Extends (tcg_gen_deposit_z_i32 T ret arg ofs len) := by
  unfold tcg_gen_deposit_z_i32
  repeat' (first | with_reducible (first
    | exact Extends.of_pure _ | exact Extends.of_abort | exact Extends.of_assert _
    | exact Extends.of_emit _ _ | exact Extends.of_new_i32 | exact Extends.of_cflags
    | apply tcg_gen_op5_extends | apply tcg_temp_free_i32_extends | apply tcg_const_i32_extends
    | apply tcg_gen_andi_i32_extends | apply tcg_gen_shli_i32_extends
    | apply tcg_gen_ext8u_i32_extends | apply tcg_gen_ext16u_i32_extends | apply Extends.of_bind
    | apply Extends.of_ite | apply Extends.of_dite | intro _ | dsimp only []) | split)

theorem tcg_gen_concat_i32_i64_extends (T : TCGTarget) (dest : TCGv_i64) (low high : TCGv_i32) :
    Extends (tcg_gen_concat_i32_i64 T dest low high) := by
  unfold tcg_gen_concat_i32_i64
  repeat' (first | with_reducible (first
    | exact Extends.of_pure _ | exact Extends.of_abort | exact Extends.of_assert _
    | exact Extends.of_emit _ _ | exact Extends.of_new_i32 | exact Extends.of_cflags
    | apply tcg_gen_mov_i32_extends | apply tcg_temp_new_i64_extends
    | apply tcg_temp_free_i64_extends | apply tcg_gen_or_i64_extends
    | apply tcg_gen_shli_i64_extends | apply tcg_gen_extu_i32_i64_extends
    | apply tcg_gen_deposit_i64_extends | apply Extends.of_bind | apply Extends.of_ite
    | apply Extends.of_dite | intro _ | dsimp only []) | split)

theorem tcg_gen_add2_i32_extends (T : TCGTarget) (rl rh al ah bl bh : TCGv_i32) :
    Extends (tcg_gen_add2_i32 T rl rh al ah bl bh) := by
  unfold tcg_gen_add2_i32
  repeat' (first | with_reducible (first
    | exact Extends.of_pure _ | exact Extends.of_abort | exact Extends.of_assert _
    | exact Extends.of_emit _ _ | exact Extends.of_new_i32 | exact Extends.of_cflags
    | apply tcg_gen_op6_extends | apply tcg_temp_new_i64_extends | apply tcg_temp_free_i64_extends
    | apply tcg_gen_add_i64_extends | apply tcg_gen_extr_i64_i32_extends
    | apply tcg_gen_concat_i32_i64_extends | apply Extends.of_bind | apply Extends.of_ite
    | apply Extends.of_dite | intro _ | dsimp only []) | split)

theorem tcg_gen_sub2_i32_extends (T : TCGTarget) (rl rh al ah bl bh : TCGv_i32) :
    Extends (tcg_gen_sub2_i32 T rl rh al ah bl bh) := by
  unfold tcg_gen_sub2_i32
  repeat' (first | with_reducible (first
    | exact Extends.of_pure _ | exact Extends.of_abort | exact Extends.of_assert _
    | exact Extends.of_emit _ _ | exact Extends.of_new_i32 | exact Extends.of_cflags
    | apply tcg_gen_op6_extends | apply tcg_temp_new_i64_extends | apply tcg_temp_free_i64_extends
    | apply tcg_gen_sub_i64_extends | apply tcg_gen_extr_i64_i32_extends
    | apply tcg_gen_concat_i32_i64_extends | apply Extends.of_bind | apply Extends.of_ite
    | apply Extends.of_dite | intro _ | dsimp only []) | split)

theorem tcg_gen_mulsu2_i32_extends (T : TCGTarget) (fuel : Nat) (rl rh arg1 arg2 : TCGv_i32) :
    Extends (tcg_gen_mulsu2_i32 T fuel rl rh arg1 arg2) := by
  unfold tcg_gen_mulsu2_i32
  repeat' (first | with_reducible (first
    | exact Extends.of_pure _ | exact Extends.of_abort | exact Extends.of_assert _
    | exact Extends.of_emit _ _ | exact Extends.of_new_i32 | exact Extends.of_cflags
    | apply tcg_temp_free_i32_extends | apply tcg_gen_mov_i32_extends
    | apply tcg_gen_sub_i32_extends | apply tcg_gen_and_i32_extends
    | apply tcg_gen_sari_i32_extends | apply tcg_temp_new_i64_extends
    | apply tcg_temp_free_i64_extends | apply tcg_gen_extu_i32_i64_extends
    | apply tcg_gen_ext_i32_i64_extends | apply tcg_gen_extr_i64_i32_extends
    | apply tcg_gen_mul_i64_extends | apply tcg_gen_mulu2_i32_extends | apply Extends.of_bind
    | apply Extends.of_ite | apply Extends.of_dite | intro _ | dsimp only []) | split)

theorem tcg_gen_discard_i32_extends (arg : TCGv_i32) :
    Extends (tcg_gen_discard_i32 arg) := by
  unfold tcg_gen_discard_i32
  repeat' (first | with_reducible (first
    | exact Extends.of_pure _ | exact Extends.of_abort | exact Extends.of_assert _
    | exact Extends.of_emit _ _ | exact Extends.of_new_i32 | exact Extends.of_cflags
    | apply tcg_gen_op1_extends | apply Extends.of_bind | apply Extends.of_ite
    | apply Extends.of_dite | intro _ | dsimp only []) | split)

theorem tcg_gen_sync_i32_extends (arg : TCGv_i32) :
    Extends (tcg_gen_sync_i32 arg) := by
  unfold tcg_gen_sync_i32
  repeat' (first | with_reducible (first
    | exact Extends.of_pure _ | exact Extends.of_abort | exact Extends.of_assert _
    | exact Extends.of_emit _ _ | exact Extends.of_new_i32 | exact Extends.of_cflags
    | apply tcg_gen_op1_extends | apply Extends.of_bind | apply Extends.of_ite
    | apply Extends.of_dite | intro _ | dsimp only []) | split)

theorem tcg_gen_ld8u_i32_extends (ret : TCGv_i32) (arg2 : TCGv_ptr) (offset : Nat) :
    Extends (tcg_gen_ld8u_i32 ret arg2 offset) := by
  unfold tcg_gen_ld8u_i32
  repeat' (first | with_reducible (first
    | exact Extends.of_pure _ | exact Extends.of_abort | exact Extends.of_assert _
    | exact Extends.of_emit _ _ | exact Extends.of_new_i32 | exact Extends.of_cflags
    | apply tcg_gen_op3_extends | apply Extends.of_bind | apply Extends.of_ite
    | apply Extends.of_dite | intro _ | dsimp only []) | split)

theorem tcg_gen_ld8s_i32_extends (ret : TCGv_i32) (arg2 : TCGv_ptr) (offset : Nat) :
    Extends (tcg_gen_ld8s_i32 ret arg2 offset) := by
  unfold tcg_gen_ld8s_i32
  repeat' (first | with_reducible (first
    | exact Extends.of_pure _ | exact Extends.of_abort | exact Extends.of_assert _
    | exact Extends.of_emit _ _ | exact Extends.of_new_i32 | exact Extends.of_cflags
    | apply tcg_gen_op3_extends | apply Extends.of_bind | apply Extends.of_ite
    | apply Extends.of_dite | intro _ | dsimp only []) | split)

theorem tcg_gen_ld16u_i32_extends (ret : TCGv_i32) (arg2 : TCGv_ptr) (offset : Nat) :
    Extends (tcg_gen_ld16u_i32 ret arg2 offset) := by
  unfold tcg_gen_ld16u_i32
  repeat' (first | with_reducible (first
    | exact Extends.of_pure _ | exact Extends.of_abort | exact Extends.of_assert _
    | exact Extends.of_emit _ _ | exact Extends.of_new_i32 | exact Extends.of_cflags
    | apply tcg_gen_op3_extends | apply Extends.of_bind | apply Extends.of_ite
    | apply Extends.of_dite | intro _ | dsimp only []) | split)

theorem tcg_gen_ld16s_i32_extends (ret : TCGv_i32) (arg2 : TCGv_ptr) (offset : Nat) :
    Extends (tcg_gen_ld16s_i32 ret arg2 offset) := by
  unfold tcg_gen_ld16s_i32
  repeat' (first | with_reducible (first
    | exact Extends.of_pure _ | exact Extends.of_abort | exact Extends.of_assert _
    | exact Extends.of_emit _ _ | exact Extends.of_new_i32 | exact Extends.of_cflags
    | apply tcg_gen_op3_extends | apply Extends.of_bind | apply Extends.of_ite
    | apply Extends.of_dite | intro _ | dsimp only []) | split)

theorem tcg_gen_ld_i32_extends (ret : TCGv_i32) (arg2 : TCGv_ptr) (offset : Nat) :
    Extends (tcg_gen_ld_i32 ret arg2 offset) := by
  unfold tcg_gen_ld_i32
  repeat' (first | with_reducible (first
    | exact Extends.of_pure _ | exact Extends.of_abort | exact Extends.of_assert _
    | exact Extends.of_emit _ _ | exact Extends.of_new_i32 | exact Extends.of_cflags
    | apply tcg_gen_op3_extends | apply Extends.of_bind | apply Extends.of_ite
    | apply Extends.of_dite | intro _ | dsimp only []) | split)

theorem tcg_gen_st_i32_extends (arg1 : TCGv_i32) (arg2 : TCGv_ptr) (offset : Nat) :
    Extends (tcg_gen_st_i32 arg1 arg2 offset) := by
  unfold tcg_gen_st_i32
  repeat' (first | with_reducible (first
    | exact Extends.of_pure _ | exact Extends.of_abort | exact Extends.of_assert _
    | exact Extends.of_emit _ _ | exact Extends.of_new_i32 | exact Extends.of_cflags
    | apply tcg_gen_op3_extends | apply Extends.of_bind | apply Extends.of_ite
    | apply Extends.of_dite | intro _ | dsimp only []) | split)

theorem tcg_gen_discard_i64_extends (T : TCGTarget) (arg : TCGv_i64) :
    Extends (tcg_gen_discard_i64 T arg) := by
  unfold tcg_gen_discard_i64
  repeat' (first | with_reducible (first
    | exact Extends.of_pure _ | exact Extends.of_abort | exact Extends.of_assert _
    | exact Extends.of_emit _ _ | exact Extends.of_new_i32 | exact Extends.of_cflags
    | apply tcg_gen_op1_extends | apply tcg_gen_discard_i32_extends | apply Extends.of_bind
    | apply Extends.of_ite | apply Extends.of_dite | intro _ | dsimp only []) | split)

theorem tcg_gen_sync_i64_extends (T : TCGTarget) (arg : TCGv_i64) :
    Extends (tcg_gen_sync_i64 T arg) := by
  unfold tcg_gen_sync_i64
  repeat' (first | with_reducible (first
    | exact Extends.of_pure _ | exact Extends.of_abort | exact Extends.of_assert _
    | exact Extends.of_emit _ _ | exact Extends.of_new_i32 | exact Extends.of_cflags
    | apply tcg_gen_op1_extends | apply tcg_gen_sync_i32_extends | apply Extends.of_bind
    | apply Extends.of_ite | apply Extends.of_dite | intro _ | dsimp only []) | split)

theorem tcg_gen_ld8u_i64_extends (T : TCGTarget) (ret : TCGv_i64) (arg2 : TCGv_ptr) (offset : Nat) :
    Extends (tcg_gen_ld8u_i64 T ret arg2 offset) := by
  unfold tcg_gen_ld8u_i64
  repeat' (first | with_reducible (first
    | exact Extends.of_pure _ | exact Extends.of_abort | exact Extends.of_assert _
    | exact Extends.of_emit _ _ | exact Extends.of_new_i32 | exact Extends.of_cflags
    | apply tcg_gen_op3_extends | apply tcg_gen_movi_i32_extends | apply tcg_gen_ld8u_i32_extends
    | apply Extends.of_bind | apply Extends.of_ite | apply Extends.of_dite | intro _
    | dsimp only []) | split)

theorem tcg_gen_ld8s_i64_extends (T : TCGTarget) (ret : TCGv_i64) (arg2 : TCGv_ptr) (offset : Nat) :
    Extends (tcg_gen_ld8s_i64 T ret arg2 offset) := by
  unfold tcg_gen_ld8s_i64
  repeat' (first | with_reducible (first
    | exact Extends.of_pure _ | exact Extends.of_abort | exact Extends.of_assert _
    | exact Extends.of_emit _ _ | exact Extends.of_new_i32 | exact Extends.of_cflags
    | apply tcg_gen_op3_extends | apply tcg_gen_sari_i32_extends | apply tcg_gen_ld8s_i32_extends
    | apply Extends.of_bind | apply Extends.of_ite | apply Extends.of_dite | intro _
    | dsimp only []) | split)

theorem tcg_gen_ld16u_i64_extends (T : TCGTarget) (ret : TCGv_i64) (arg2 : TCGv_ptr) (offset : Nat) :
    Extends (tcg_gen_ld16u_i64 T ret arg2 offset) := by
  unfold tcg_gen_ld16u_i64
  repeat' (first | with_reducible (first
    | exact Extends.of_pure _ | exact Extends.of_abort | exact Extends.of_assert _
    | exact Extends.of_emit _ _ | exact Extends.of_new_i32 | exact Extends.of_cflags
    | apply tcg_gen_op3_extends | apply tcg_gen_movi_i32_extends | apply tcg_gen_ld16u_i32_extends
    | apply Extends.of_bind | apply Extends.of_ite | apply Extends.of_dite | intro _
    | dsimp only []) | split)

theorem tcg_gen_ld16s_i64_extends (T : TCGTarget) (ret : TCGv_i64) (arg2 : TCGv_ptr) (offset : Nat) :
    Extends (tcg_gen_ld16s_i64 T ret arg2 offset) := by
  unfold tcg_gen_ld16s_i64
  repeat' (first | with_reducible (first
    | exact Extends.of_pure _ | exact Extends.of_abort | exact Extends.of_assert _
    | exact Extends.of_emit _ _ | exact Extends.of_new_i32 | exact Extends.of_cflags
    | apply tcg_gen_op3_extends | apply tcg_gen_sari_i32_extends | apply tcg_gen_ld16s_i32_extends
    | apply Extends.of_bind | apply Extends.of_ite | apply Extends.of_dite | intro _
    | dsimp only []) | split)

theorem tcg_gen_ld32u_i64_extends (T : TCGTarget) (ret : TCGv_i64) (arg2 : TCGv_ptr) (offset : Nat) :
    Extends (tcg_gen_ld32u_i64 T ret arg2 offset) := by
  unfold tcg_gen_ld32u_i64
  repeat' (first | with_reducible (first
    | exact Extends.of_pure _ | exact Extends.of_abort | exact Extends.of_assert _
    | exact Extends.of_emit _ _ | exact Extends.of_new_i32 | exact Extends.of_cflags
    | apply tcg_gen_op3_extends | apply tcg_gen_movi_i32_extends | apply tcg_gen_ld_i32_extends
    | apply Extends.of_bind | apply Extends.of_ite | apply Extends.of_dite | intro _
    | dsimp only []) | split)

theorem tcg_gen_ld32s_i64_extends (T : TCGTarget) (ret : TCGv_i64) (arg2 : TCGv_ptr) (offset : Nat) :
    Extends (tcg_gen_ld32s_i64 T ret arg2 offset) := by
  unfold tcg_gen_ld32s_i64
  repeat' (first | with_reducible (first
    | exact Extends.of_pure _ | exact Extends.of_abort | exact Extends.of_assert _
    | exact Extends.of_emit _ _ | exact Extends.of_new_i32 | exact Extends.of_cflags
    | apply tcg_gen_op3_extends | apply tcg_gen_sari_i32_extends | apply tcg_gen_ld_i32_extends
    | apply Extends.of_bind | apply Extends.of_ite | apply Extends.of_dite | intro _
    | dsimp only []) | split)

theorem tcg_gen_ld_i64_extends (T : TCGTarget) (ret : TCGv_i64) (arg2 : TCGv_ptr) (offset : Nat) :
    Extends (tcg_gen_ld_i64 T ret arg2 offset) := by
  unfold tcg_gen_ld_i64
  repeat' (first | with_reducible (first
    | exact Extends.of_pure _ | exact Extends.of_abort | exact Extends.of_assert _
    | exact Extends.of_emit _ _ | exact Extends.of_new_i32 | exact Extends.of_cflags
    | apply tcg_gen_op3_extends | apply tcg_gen_ld_i32_extends | apply Extends.of_bind
    | apply Extends.of_ite | apply Extends.of_dite | intro _ | dsimp only []) | split)

theorem tcg_gen_st_i64_extends (T : TCGTarget) (arg1 : TCGv_i64) (arg2 : TCGv_ptr) (offset : Nat) :
    Extends (tcg_gen_st_i64 T arg1 arg2 offset) := by
  unfold tcg_gen_st_i64
  repeat' (first | with_reducible (first
    | exact Extends.of_pure _ | exact Extends.of_abort | exact Extends.of_assert _
    | exact Extends.of_emit _ _ | exact Extends.of_new_i32 | exact Extends.of_cflags
    | apply tcg_gen_op3_extends | apply tcg_gen_st_i32_extends | apply Extends.of_bind
    | apply Extends.of_ite | apply Extends.of_dite | intro _ | dsimp only []) | split)

theorem tcg_gen_brcond_i64_extends (T : TCGTarget) (cond : TCGCond) (arg1 arg2 : TCGv_i64) (l : TCGLabel) :
    Extends (tcg_gen_brcond_i64 T cond arg1 arg2 l) := by
  unfold tcg_gen_brcond_i64
  repeat' (first | with_reducible (first
    | exact Extends.of_pure _ | exact Extends.of_abort | exact Extends.of_assert _
    | exact Extends.of_emit _ _ | exact Extends.of_new_i32 | exact Extends.of_cflags
    | apply tcg_gen_op4_extends | apply tcg_gen_op6_extends | apply tcg_gen_br_extends
    | apply Extends.of_bind | apply Extends.of_ite | apply Extends.of_dite | intro _
    | dsimp only []) | split)

theorem tcg_gen_brcondi_i64_extends (T : TCGTarget) (cond : TCGCond) (arg1 : TCGv_i64) (arg2 : Nat) (l : TCGLabel) :
    Extends (tcg_gen_brcondi_i64 T cond arg1 arg2 l) := by
  unfold tcg_gen_brcondi_i64
  repeat' (first | with_reducible (first
    | exact Extends.of_pure _ | exact Extends.of_abort | exact Extends.of_assert _
    | exact Extends.of_emit _ _ | exact Extends.of_new_i32 | exact Extends.of_cflags
    | apply tcg_temp_free_i64_extends | apply tcg_const_i64_extends | apply tcg_gen_br_extends
    | apply tcg_gen_brcond_i64_extends | apply Extends.of_bind | apply Extends.of_ite
    | apply Extends.of_dite | intro _ | dsimp only []) | split)

theorem tcg_gen_setcondi_i64_extends (T : TCGTarget) (cond : TCGCond) (ret arg1 : TCGv_i64) (arg2 : Nat) :
    Extends (tcg_gen_setcondi_i64 T cond ret arg1 arg2) := by
  unfold tcg_gen_setcondi_i64
  repeat' (first | with_reducible (first
    | exact Extends.of_pure _ | exact Extends.of_abort | exact Extends.of_assert _
    | exact Extends.of_emit _ _ | exact Extends.of_new_i32 | exact Extends.of_cflags
    | apply tcg_temp_free_i64_extends | apply tcg_const_i64_extends
    | apply tcg_gen_setcond_i64_extends | apply Extends.of_bind | apply Extends.of_ite
    | apply Extends.of_dite | intro _ | dsimp only []) | split)

theorem tcg_gen_div_i64_extends (T : TCGTarget) (ret arg1 arg2 : TCGv_i64) :
    Extends (tcg_gen_div_i64 T ret arg1 arg2) := by
  unfold tcg_gen_div_i64
  repeat' (first | with_reducible (first
    | exact Extends.of_pure _ | exact Extends.of_abort | exact Extends.of_assert _
    | exact Extends.of_emit _ _ | exact Extends.of_new_i32 | exact Extends.of_cflags
    | apply tcg_gen_op3_extends | apply tcg_gen_op5_extends | apply tcg_temp_new_i64_extends
    | apply tcg_temp_free_i64_extends | apply tcg_gen_sari_i64_extends
    | apply gen_helper_div_i64_extends | apply Extends.of_bind | apply Extends.of_ite
    | apply Extends.of_dite | intro _ | dsimp only []) | split)

theorem tcg_gen_rem_i64_extends (T : TCGTarget) (fuel : Nat) (ret arg1 arg2 : TCGv_i64) :
    Extends (tcg_gen_rem_i64 T fuel ret arg1 arg2) := by
  unfold tcg_gen_rem_i64
  repeat' (first | with_reducible (first
    | exact Extends.of_pure _ | exact Extends.of_abort | exact Extends.of_assert _
    | exact Extends.of_emit _ _ | exact Extends.of_new_i32 | exact Extends.of_cflags
    | apply tcg_gen_op3_extends | apply tcg_gen_op5_extends | apply tcg_temp_new_i64_extends
    | apply tcg_temp_free_i64_extends | apply tcg_gen_sub_i64_extends
    | apply tcg_gen_sari_i64_extends | apply tcg_gen_mul_i64_extends
    | apply gen_helper_rem_i64_extends | apply Extends.of_bind | apply Extends.of_ite
    | apply Extends.of_dite | intro _ | dsimp only []) | split)

theorem tcg_gen_divu_i64_extends (T : TCGTarget) (ret arg1 arg2 : TCGv_i64) :
    Extends (tcg_gen_divu_i64 T ret arg1 arg2) := by
  unfold tcg_gen_divu_i64
  repeat' (first | with_reducible (first
    | exact Extends.of_pure _ | exact Extends.of_abort | exact Extends.of_assert _
    | exact Extends.of_emit _ _ | exact Extends.of_new_i32 | exact Extends.of_cflags
    | apply tcg_gen_op3_extends | apply tcg_gen_op5_extends | apply tcg_temp_new_i64_extends
    | apply tcg_temp_free_i64_extends | apply tcg_gen_movi_i64_extends
    | apply gen_helper_divu_i64_extends | apply Extends.of_bind | apply Extends.of_ite
    | apply Extends.of_dite | intro _ | dsimp only []) | split)

theorem tcg_gen_remu_i64_extends (T : TCGTarget) (fuel : Nat) (ret arg1 arg2 : TCGv_i64) :
    Extends (tcg_gen_remu_i64 T fuel ret arg1 arg2) := by
  unfold tcg_gen_remu_i64
  repeat' (first | with_reducible (first
    | exact Extends.of_pure _ | exact Extends.of_abort | exact Extends.of_assert _
    | exact Extends.of_emit _ _ | exact Extends.of_new_i32 | exact Extends.of_cflags
    | apply tcg_gen_op3_extends | apply tcg_gen_op5_extends | apply tcg_temp_new_i64_extends
    | apply tcg_temp_free_i64_extends | apply tcg_gen_movi_i64_extends
    | apply tcg_gen_sub_i64_extends | apply tcg_gen_mul_i64_extends
    | apply gen_helper_remu_i64_extends | apply Extends.of_bind | apply Extends.of_ite
    | apply Extends.of_dite | intro _ | dsimp only []) | split)

theorem tcg_gen_eqv_i64_extends (T : TCGTarget) (ret arg1 arg2 : TCGv_i64) :
    Extends (tcg_gen_eqv_i64 T ret arg1 arg2) := by
  unfold tcg_gen_eqv_i64
  repeat' (first | with_reducible (first
    | exact Extends.of_pure _ | exact Extends.of_abort | exact Extends.of_assert _
    | exact Extends.of_emit _ _ | exact Extends.of_new_i32 | exact Extends.of_cflags
    | apply tcg_gen_op3_extends | apply tcg_gen_xor_i64_extends | apply tcg_gen_not_i64_extends
    | apply tcg_gen_eqv_i32_extends | apply Extends.of_bind | apply Extends.of_ite
    | apply Extends.of_dite | intro _ | dsimp only []) | split)

theorem tcg_gen_nand_i64_extends (T : TCGTarget) (ret arg1 arg2 : TCGv_i64) :
    Extends (tcg_gen_nand_i64 T ret arg1 arg2) := by
  unfold tcg_gen_nand_i64
  repeat' (first | with_reducible (first
    | exact Extends.of_pure _ | exact Extends.of_abort | exact Extends.of_assert _
    | exact Extends.of_emit _ _ | exact Extends.of_new_i32 | exact Extends.of_cflags
    | apply tcg_gen_op3_extends | apply tcg_gen_and_i64_extends | apply tcg_gen_not_i64_extends
    | apply tcg_gen_nand_i32_extends | apply Extends.of_bind | apply Extends.of_ite
    | apply Extends.of_dite | intro _ | dsimp only []) | split)

theorem tcg_gen_nor_i64_extends (T : TCGTarget) (ret arg1 arg2 : TCGv_i64) :
    Extends (tcg_gen_nor_i64 T ret arg1 arg2) := by
  unfold tcg_gen_nor_i64
  repeat' (first | with_reducible (first
    | exact Extends.of_pure _ | exact Extends.of_abort | exact Extends.of_assert _
    | exact Extends.of_emit _ _ | exact Extends.of_new_i32 | exact Extends.of_cflags
    | apply tcg_gen_op3_extends | apply tcg_gen_or_i64_extends | apply tcg_gen_not_i64_extends
    | apply tcg_gen_nor_i32_extends | apply Extends.of_bind | apply Extends.of_ite
    | apply Extends.of_dite | intro _ | dsimp only []) | split)

theorem tcg_gen_orc_i64_extends (T : TCGTarget) (ret arg1 arg2 : TCGv_i64) :
    Extends (tcg_gen_orc_i64 T ret arg1 arg2) := by
  unfold tcg_gen_orc_i64
  repeat' (first | with_reducible (first
    | exact Extends.of_pure _ | exact Extends.of_abort | exact Extends.of_assert _
    | exact Extends.of_emit _ _ | exact Extends.of_new_i32 | exact Extends.of_cflags
    | apply tcg_gen_op3_extends | apply tcg_temp_new_i64_extends | apply tcg_temp_free_i64_extends
    | apply tcg_gen_or_i64_extends | apply tcg_gen_not_i64_extends | apply tcg_gen_orc_i32_extends
    | apply Extends.of_bind | apply Extends.of_ite | apply Extends.of_dite | intro _
    | dsimp only []) | split)

theorem tcg_gen_clrsb_i64_extends (T : TCGTarget) (ret arg : TCGv_i64) :
    Extends (tcg_gen_clrsb_i64 T ret arg) := by
  unfold tcg_gen_clrsb_i64
  repeat' (first | with_reducible (first
    | exact Extends.of_pure _ | exact Extends.of_abort | exact Extends.of_assert _
    | exact Extends.of_emit _ _ | exact Extends.of_new_i32 | exact Extends.of_cflags
    | apply tcg_temp_new_i64_extends | apply tcg_temp_free_i64_extends
    | apply tcg_gen_xor_i64_extends | apply tcg_gen_subi_i64_extends
    | apply tcg_gen_sari_i64_extends | apply tcg_gen_clzi_i64_extends
    | apply gen_helper_clrsb_i64_extends | apply Extends.of_bind | apply Extends.of_ite
    | apply Extends.of_dite | intro _ | dsimp only []) | split)

theorem tcg_gen_deposit_z_i64_extends (T : TCGTarget) (ret arg : TCGv_i64) (ofs len : Nat) :
    Extends (tcg_gen_deposit_z_i64 T ret arg ofs len) := by
  unfold tcg_gen_deposit_z_i64
  repeat' (first | with_reducible (first
    | exact Extends.of_pure _ | exact Extends.of_abort | exact Extends.of_assert _
    | exact Extends.of_emit _ _ | exact Extends.of_new_i32 | exact Extends.of_cflags
    | apply tcg_gen_op5_extends | apply tcg_gen_movi_i32_extends | apply tcg_temp_free_i64_extends
    | apply tcg_const_i64_extends | apply tcg_gen_andi_i64_extends
    | apply tcg_gen_shli_i64_extends | apply tcg_gen_ext8u_i64_extends
    | apply tcg_gen_ext16u_i64_extends | apply tcg_gen_ext32u_i64_extends
    | apply tcg_gen_deposit_z_i32_extends | apply Extends.of_bind | apply Extends.of_ite
    | apply Extends.of_dite | intro _ | dsimp only []) | split)

theorem tcg_gen_mulsu2_i64_extends (T : TCGTarget) (fuel : Nat) (rl rh arg1 arg2 : TCGv_i64) :
    Extends (tcg_gen_mulsu2_i64 T fuel rl rh arg1 arg2) := by
  unfold tcg_gen_mulsu2_i64
  repeat' (first | with_reducible (first
    | exact Extends.of_pure _ | exact Extends.of_abort | exact Extends.of_assert _
    | exact Extends.of_emit _ _ | exact Extends.of_new_i32 | exact Extends.of_cflags
    | apply tcg_temp_new_i64_extends | apply tcg_temp_free_i64_extends
    | apply tcg_gen_mov_i64_extends | apply tcg_gen_and_i64_extends
    | apply tcg_gen_sub_i64_extends | apply tcg_gen_sari_i64_extends
    | apply tcg_gen_mulu2_i64_extends | apply Extends.of_bind | apply Extends.of_ite
    | apply Extends.of_dite | intro _ | dsimp only []) | split)

theorem tcg_gen_extr32_i64_extends (T : TCGTarget) (lo hi arg : TCGv_i64) :
    Extends (tcg_gen_extr32_i64 T lo hi arg) := by
  unfold tcg_gen_extr32_i64
  repeat' (first | with_reducible (first
    | exact Extends.of_pure _ | exact Extends.of_abort | exact Extends.of_assert _
    | exact Extends.of_emit _ _ | exact Extends.of_new_i32 | exact Extends.of_cflags
    | apply tcg_gen_shri_i64_extends | apply tcg_gen_ext32u_i64_extends | apply Extends.of_bind
    | apply Extends.of_ite | apply Extends.of_dite | intro _ | dsimp only []) | split)

theorem xor_low_bits (w k : Nat) (hw : w = 32 ∨ w = 64) (hk : k < w) :
    (w - 1 - k) ^^^ (w - 1) = k := by
  rcases hw with rfl | rfl
  · interval_cases k <;> rfl
  · interval_cases k <;> rfl

theorem ctz_via_ctpop (w x : Nat) (hx : x < 2 ^ w) (h0 : x ≠ 0) :
    ctpop w (((x + 2 ^ w - 1) % 2 ^ w) &&& bnot w x) = ctz w x := by
  rw [ctz_mask w x hx h0]
  exact ctpop_mask w _ (le_of_lt (ctz_lt_of_ne_zero w x (by rwa [Nat.mod_eq_of_lt hx])))

theorem ctz_via_clz (w x : Nat) (hw : w = 32 ∨ w = 64) (hx : x < 2 ^ w) (h0 : x ≠ 0) :
    clz w (((2 ^ w - x) % 2 ^ w) &&& x) ^^^ (w - 1) = ctz w x := by
  have hk := ctz_lt_of_ne_zero w x (by rwa [Nat.mod_eq_of_lt hx])
  rw [ctz_lowbit w x hx h0, clz_two_pow w _ hk]
  exact xor_low_bits w _ hw hk

theorem tcg_gen_ctz_i64_sem (T : TCGTarget) {r a b n : Nat} (ha : a + T.w64 ≤ n)
    (hb : b + T.w64 ≤ n) (hr : r + T.w64 ≤ n)
    (hrb : r = b ∨ r + T.w64 ≤ b ∨ b + T.w64 ≤ r) :
    Sem (tcg_gen_ctz_i64 T r a b) n
      (fun m => m.set64 T r (if m.get64 T a = 0 then m.get64 T b
        else ctz 64 (m.get64 T a))) := by
  have hw1 := w64_pos T
  have hL := Local.set64_2 T r (fun x y => if x = 0 then y else ctz 64 x) ha hb
  have hz : ∀ x, ctz 64 x ≤ 64 := fun x => (ctz_spec 64 x).1
  unfold tcg_gen_ctz_i64
  by_cases hn : T.TCG_TARGET_HAS_ctz_i64 = true
  · simp only [hn, if_true]
    have hT : T.reg64 = true := by
      simp only [TCGTarget.TCG_TARGET_HAS_ctz_i64, Bool.and_eq_true] at hn
      exact hn.1
    have hw := w64_of_reg64 hT
    exact Sem.op2_64b hT .ctz_i64 (fun x y => if x = 0 then y else ctz 64 x) (fun _ => rfl)
      (fun x y hx hy => by
        have := hz x
        show (if x = 0 then y else ctz 64 x) < 2 ^ 64
        split <;> omega) (by omega) (by omega)
  simp only [hn, if_false]
  by_cases hp : T.TCG_TARGET_HAS_ctpop_i64 = true
  · simp only [hp, true_or, if_true]
    refine Sem.new64 T (fun t ht => Sem.bind
      (tcg_gen_subi_i64_sem T (r := t) (a := a) 1 (by omega) (by omega))
      (Sem.bind (tcg_gen_andc_i64_sem T (r := t) (a := t) (b := a) (by omega) (by omega)
        (by omega) (by omega))
      (Sem.bind (tcg_gen_ctpop_i64_sem T (r := t) (a := t) (by omega) (by omega) (by omega))
        (ctz_tail_i64_sem T (r := r) (a := a) (b := b) (t := t) (by omega) (by omega)
          (by omega) (by omega) hrb (by omega))))) (fun t ht m => ?_) hL
    simp only [Function.comp, id]
    simp (disch := omega) only [Machine.get64_set64_self, Machine.get64_set64_ne]
    refine Agree.of_set64 T (by simp) ?_ (fun i hi hne => ?_)
    · congr 1
      by_cases h0 : m.get64 T a = 0
      · rw [if_pos h0, if_pos h0]
      · rw [if_neg h0, if_neg h0, Nat.mod_mod, Nat.mod_eq_of_lt (ctpop_lt64 64 _ (le_refl _)),
          Nat.mod_eq_of_lt (lt_of_le_of_lt Nat.and_le_right (bnot_lt 64 _))]
        exact ctz_via_ctpop 64 _ (Machine.get64_lt T m a) h0
    · simp (disch := omega) only [Machine.set64_regs_ne]
  simp only [hp, false_or, if_false, Bool.false_eq_true]
  by_cases hc : T.TCG_TARGET_HAS_clz_i64 = true
  · simp only [hc, if_true]
    refine Sem.new64 T (fun t ht => Sem.bind
      (tcg_gen_neg_i64_sem T (r := t) (a := a) (by omega))
      (Sem.bind (tcg_gen_and_i64_sem T (r := t) (a := t) (b := a) (by omega) (by omega)
        (by omega) (by omega))
      (Sem.bind (tcg_gen_clzi_i64_sem T (r := t) (a := t) 64 (by norm_num) (by omega)
        (by omega) (by omega))
      (Sem.bind (tcg_gen_xori_i64_sem T (r := t) (a := t) 63 (by omega) (by omega))
        (ctz_tail_i64_sem T (r := r) (a := a) (b := b) (t := t) (by omega) (by omega)
          (by omega) (by omega) hrb (by omega)))))) (fun t ht m => ?_) hL
    simp only [Function.comp, id]
    simp (disch := omega) only [Machine.get64_set64_self, Machine.get64_set64_ne]
    refine Agree.of_set64 T (by simp) ?_ (fun i hi hne => ?_)
    · congr 1
      by_cases h0 : m.get64 T a = 0
      · rw [if_pos h0, if_pos h0]
      · rw [if_neg h0, if_neg h0]
        have hx := Machine.get64_lt T m a
        have hlow := ctz_lowbit 64 _ hx h0
        have hk := ctz_lt_of_ne_zero 64 (m.get64 T a) (by rwa [Nat.mod_eq_of_lt hx])
        have hne : ¬ (2 ^ 64 - m.get64 T a) % 2 ^ 64 &&& m.get64 T a = 0 := by
          rw [hlow]
          exact Nat.ne_of_gt (Nat.two_pow_pos _)
        have hlt : (2 ^ 64 - m.get64 T a) % 2 ^ 64 &&& m.get64 T a < 2 ^ 64 :=
          lt_of_le_of_lt Nat.and_le_right hx
        rw [Nat.mod_mod, Nat.mod_eq_of_lt hlt, if_neg hne,
          Nat.mod_eq_of_lt (clz_lt64 64 _ (le_refl _))]
        have := ctz_via_clz 64 _ (Or.inr rfl) hx h0
        rw [← this]
        apply Nat.mod_eq_of_lt
        rw [this]
        omega
    · simp (disch := omega) only [Machine.set64_regs_ne]
  · simp only [hc, if_false, Bool.false_eq_true]
    cases hT : T.reg64
    · have hw := w64_of_reg32 hT
      exact Sem.helper2_64 hT .ctz_i64 (fun x y => if x = 0 then y else ctz 64 x)
        (fun _ => rfl) (by omega) (by omega)
    · have hw := w64_of_reg64 hT
      exact Sem.helper2_reg64 hT .ctz_i64 (fun x y => if x = 0 then y else ctz 64 x)
        (fun _ => rfl) (fun x y hx hy => by
          have := hz x
          show (if x = 0 then y else ctz 64 x) < 2 ^ 64
          split <;> omega) (by omega) (by omega)
theorem ctz_mod (w x : Nat) : ctz w (x % 2 ^ w) = ctz w x := by
  obtain ⟨h1, h2, h3⟩ := ctz_spec w x
  rcases Nat.eq_or_lt_of_le h1 with e | e
  · rw [e]
    apply ctz_eq_width
    intro i hi
    rw [Nat.testBit_mod_two_pow, h3 i (by omega)]
    simp
  · apply ctz_eq_of w _ _ e
    · rw [Nat.testBit_mod_two_pow, h2 e]
      simp [e]
    · intro i hi
      rw [Nat.testBit_mod_two_pow, h3 i hi]
      simp

theorem ctz_add_of_lt (w d x : Nat) (hx : x < 2 ^ w) (h0 : x ≠ 0) :
    ctz (w + d) x = ctz w x := by
  have hk := ctz_lt_of_ne_zero w x (by rwa [Nat.mod_eq_of_lt hx])
  obtain ⟨h1, h2, h3⟩ := ctz_spec w x
  exact ctz_eq_of (w + d) x _ (by omega) (h2 hk) h3

theorem tcg_gen_ctz_i32_sem (T : TCGTarget) {r a b n : Nat} (ha : a < n) (hb : b < n)
    (hr : r < n) :
    Sem (tcg_gen_ctz_i32 T r a b) n
      (fun m => m.set r (if m.regs a % 2 ^ 32 = 0 then m.regs b % 2 ^ 32
        else ctz 32 (m.regs a % 2 ^ 32))) := by
  have hL := Local.set2 r (fun x y => if x % 2 ^ 32 = 0 then y % 2 ^ 32
    else ctz 32 (x % 2 ^ 32)) ha hb
  have hz : ∀ x, ctz 32 x ≤ 32 := fun x => (ctz_spec 32 x).1
  unfold tcg_gen_ctz_i32
  by_cases hn : T.TCG_TARGET_HAS_ctz_i32 = true
  · simp only [hn, if_true]
    exact Sem.op2 .ctz_i32 (fun x y => if x % 2 ^ 32 = 0 then y % 2 ^ 32
      else ctz 32 (x % 2 ^ 32)) (fun _ => rfl) ha hb
  simp only [hn, if_false]
  by_cases h64 : T.TCG_TARGET_HAS_ctz_i64 = true
  · simp only [h64, if_true]
    have hT : T.reg64 = true := by
      simp only [TCGTarget.TCG_TARGET_HAS_ctz_i64, Bool.and_eq_true] at h64
      exact h64.1
    have hw := w64_of_reg64 hT
    refine Sem.new64_2 T (fun t ht => Sem.bind
      (tcg_gen_extu_i32_i64_sem T (r := t) (a := a) (by omega))
      (Sem.bind (tcg_gen_extu_i32_i64_sem T (r := t + T.w64) (a := b) (by omega))
      (Sem.bind (tcg_gen_ctz_i64_sem T (r := t) (a := t) (b := t + T.w64) (by omega)
        (by omega) (by omega) (by omega))
      (Sem.bind (tcg_gen_extrl_i64_i32_sem T (r := r) (a := t) (by omega))
      (Sem.bind (Sem.free64 t _) (Sem.free64 (t + T.w64) _))))))
      (fun t ht m => ?_) hL
    simp only [Function.comp, id]
    simp (disch := omega) only [Machine.get64_set64_self, Machine.get64_set64_ne,
      Machine.set64_regs_ne]
    refine Agree.of_set (by simp [Machine.set64_of_reg64 hT, Machine.set]) ?_
      (fun i hi hne => ?_)
    · simp only [Machine.set_regs_self]
      have hx : m.regs a % 2 ^ 32 < 2 ^ 32 := Nat.mod_lt _ (by norm_num)
      have hd : m.regs b % 2 ^ 32 < 2 ^ 32 := Nat.mod_lt _ (by norm_num)
      rw [Nat.mod_eq_of_lt (lt_trans hx (by norm_num)),
        Nat.mod_eq_of_lt (lt_trans hd (by norm_num))]
      by_cases h0 : m.regs a % 2 ^ 32 = 0
      · simp only [h0, if_true]
        omega
      · simp only [h0, if_false]
        rw [ctz_add_of_lt 32 32 _ hx h0]
        have := hz (m.regs a % 2 ^ 32)
        omega
    · rw [Machine.set_regs_ne _ _ hne]
      simp (disch := omega) only [Machine.set64_regs_ne]
  simp only [h64, if_false, Bool.false_eq_true]
  by_cases hp : T.TCG_TARGET_HAS_ctpop_i32 = true ∨ T.TCG_TARGET_HAS_ctpop_i64 = true
  · have hany : T.TCG_TARGET_HAS_ctpop_i32 = true ∨ T.TCG_TARGET_HAS_ctpop_i64 = true ∨
        T.TCG_TARGET_HAS_clz_i32 = true ∨ T.TCG_TARGET_HAS_clz_i64 = true := by tauto
    simp only [hany, hp, if_true]
    refine Sem.new hL (fun t ht => Sem.bind
      (tcg_gen_subi_i32_sem (r := t) (a := a) 1 (by omega))
      (Sem.bind (tcg_gen_andc_i32_sem T (r := t) (a := t) (b := a) (by omega) (by omega))
      (Sem.bind (tcg_gen_ctpop_i32_sem T (r := t) (a := t) (by omega))
        (ctz_tail_i32_sem T (r := r) (a := a) (b := b) (t := t) (by omega) (by omega)
          (by omega) (by omega))))) (fun t ht m => ?_)
    have d1 : a ≠ t := by omega
    have d2 : b ≠ t := by omega
    refine ⟨by simp [Machine.set, Function.comp], fun i hi => ?_⟩
    have d3 : i ≠ t := by omega
    simp only [Function.comp, id, Machine.set_regs, d1, d2, d3, if_false, if_true]
    by_cases hir : i = r
    · simp only [hir, if_true]
      by_cases h0 : m.regs a % 2 ^ 32 = 0
      · simp only [h0, if_true]
      · simp only [h0, if_false]
        have hx : m.regs a % 2 ^ 32 < 2 ^ 32 := Nat.mod_lt _ (by norm_num)
        have := ctz_via_ctpop 32 _ hx h0
        rw [bnot_mod] at this
        rw [show (1 : Nat) % 2 ^ 32 = 1 from rfl, Nat.mod_mod, this]
        exact Nat.mod_eq_of_lt (lt_of_le_of_lt (hz _) (by norm_num))
    · simp only [hir, if_false]
  · have hp1 : ¬ T.TCG_TARGET_HAS_ctpop_i32 = true := fun h => hp (Or.inl h)
    have hp2 : ¬ T.TCG_TARGET_HAS_ctpop_i64 = true := fun h => hp (Or.inr h)
    simp only [hp1, hp2, false_or, if_false, Bool.false_eq_true]
    by_cases hc : T.TCG_TARGET_HAS_clz_i32 = true ∨ T.TCG_TARGET_HAS_clz_i64 = true
    · simp only [hc, if_true]
      refine Sem.new hL (fun t ht => Sem.bind
        (tcg_gen_neg_i32_sem T (r := t) (a := a) (by omega))
        (Sem.bind (tcg_gen_and_i32_sem (r := t) (a := t) (b := a) (by omega) (by omega))
        (Sem.bind (tcg_gen_clzi_i32_sem T (r := t) (a := t) 32 (by omega) (by omega))
        (Sem.bind (tcg_gen_xori_i32_sem T (r := t) (a := t) 31 (by omega))
          (ctz_tail_i32_sem T (r := r) (a := a) (b := b) (t := t) (by omega) (by omega)
            (by omega) (by omega)))))) (fun t ht m => ?_)
      have d1 : a ≠ t := by omega
      have d2 : b ≠ t := by omega
      refine ⟨by simp [Machine.set, Function.comp], fun i hi => ?_⟩
      have d3 : i ≠ t := by omega
      simp only [Function.comp, id, Machine.set_regs, d1, d2, d3, if_false, if_true]
      by_cases hir : i = r
      · simp only [hir, if_true]
        by_cases h0 : m.regs a % 2 ^ 32 = 0
        · simp only [h0, if_true]
        · simp only [h0, if_false]
          have hx : m.regs a % 2 ^ 32 < 2 ^ 32 := Nat.mod_lt _ (by norm_num)
          have hlow := ctz_lowbit 32 _ hx h0
          have hk := ctz_lt_of_ne_zero 32 (m.regs a % 2 ^ 32) (by rwa [Nat.mod_mod])
          have hne : ¬ (2 ^ 32 - m.regs a % 2 ^ 32) % 2 ^ 32 &&& m.regs a % 2 ^ 32 = 0 := by
            rw [hlow]
            exact Nat.ne_of_gt (Nat.two_pow_pos _)
          have hlt : (2 ^ 32 - m.regs a % 2 ^ 32) % 2 ^ 32 &&& m.regs a % 2 ^ 32 < 2 ^ 32 :=
            lt_of_le_of_lt Nat.and_le_right hx
          have hcl := clz_le 32 ((2 ^ 32 - m.regs a % 2 ^ 32) % 2 ^ 32 &&& m.regs a % 2 ^ 32)
          rw [Nat.mod_mod, Nat.mod_eq_of_lt hlt, if_neg hne,
            Nat.mod_eq_of_lt (lt_of_le_of_lt hcl (by norm_num)),
            show (31 : Nat) % 2 ^ 32 = 32 - 1 from rfl]
          have := ctz_via_clz 32 _ (Or.inl rfl) hx h0
          rw [this]
          exact Nat.mod_eq_of_lt (lt_of_le_of_lt (hz _) (by norm_num))
      · simp only [hir, if_false]
    · simp only [hc, if_false]
      exact Sem.helper2_i32 .ctz_i32 (fun x y => if x % 2 ^ 32 = 0 then y % 2 ^ 32
        else ctz 32 (x % 2 ^ 32)) (fun _ => rfl) ha hb
theorem ctpop_all_ones (w : Nat) :
    ctpop w (((0 + 2 ^ w - 1) % 2 ^ w) &&& bnot w 0) = w := by
  have hp := Nat.two_pow_pos w
  have e : bnot w 0 = 2 ^ w - 1 := by
    unfold bnot
    rw [Nat.zero_mod, Nat.xor_zero]
  rw [e, Nat.zero_add, Nat.mod_eq_of_lt (by omega), Nat.and_self]
  exact ctpop_mask w w (le_refl _)

theorem ctz_or_width_via_ctpop (w x : Nat) (hx : x < 2 ^ w) :
    ctpop w (((x + 2 ^ w - 1) % 2 ^ w) &&& bnot w x) = if x = 0 then w else ctz w x := by
  by_cases h0 : x = 0
  · subst h0
    rw [if_pos rfl]
    exact ctpop_all_ones w
  · rw [if_neg h0]
    exact ctz_via_ctpop w x hx h0

theorem tcg_gen_ctzi_i32_sem (T : TCGTarget) {r a n : Nat} (c : Nat) (ha : a < n)
    (hr : r < n) :
    Sem (tcg_gen_ctzi_i32 T r a c) n
      (fun m => m.set r (if m.regs a % 2 ^ 32 = 0 then c % 2 ^ 32
        else ctz 32 (m.regs a % 2 ^ 32))) := by
  have hz : ∀ x, ctz 32 x ≤ 32 := fun x => (ctz_spec 32 x).1
  unfold tcg_gen_ctzi_i32
  split_ifs with h
  · obtain ⟨-, hp, rfl⟩ := h
    refine Sem.new (Local.set1 r (fun x => if x % 2 ^ 32 = 0 then 32 % 2 ^ 32
        else ctz 32 (x % 2 ^ 32)) ha) (fun t ht => Sem.bind
      (tcg_gen_subi_i32_sem (r := t) (a := a) 1 (by omega))
      (Sem.bind (tcg_gen_andc_i32_sem T (r := t) (a := t) (b := a) (by omega) (by omega))
      (Sem.bind (tcg_gen_ctpop_i32_sem T (r := r) (a := t) (by omega))
        (Sem.free t _)))) (fun t ht m => ?_)
    have d1 : a ≠ t := by omega
    refine ⟨by simp [Machine.set, Function.comp], fun i hi => ?_⟩
    have d3 : i ≠ t := by omega
    simp only [Function.comp, id, Machine.set_regs, d1, d3, if_false, if_true]
    by_cases hir : i = r
    · simp only [hir, if_true]
      have hx : m.regs a % 2 ^ 32 < 2 ^ 32 := Nat.mod_lt _ (by norm_num)
      have := ctz_or_width_via_ctpop 32 _ hx
      rw [bnot_mod] at this
      rw [show (1 : Nat) % 2 ^ 32 = 1 from rfl, Nat.mod_mod, this]
      rfl
    · simp only [hir, if_false]
  · exact Sem.imm32 c (fun x y => if x % 2 ^ 32 = 0 then y % 2 ^ 32 else ctz 32 (x % 2 ^ 32))
      (fun x => if x % 2 ^ 32 = 0 then c % 2 ^ 32 else ctz 32 (x % 2 ^ 32)) ha
      (fun t ht => tcg_gen_ctz_i32_sem T (by omega) (by omega) (by omega))
      (fun x => by simp only [Nat.mod_mod])

theorem ctz64_pair (lo hi : Nat) :
    ctz 64 (pair64 lo hi) =
      if lo % 2 ^ 32 = 0 then (if hi % 2 ^ 32 = 0 then 64 else 32 + ctz 32 hi)
      else ctz 32 lo := by
  by_cases hl : lo % 2 ^ 32 = 0
  · rw [if_pos hl]
    have hlb : ∀ i, i < 32 → lo.testBit i = false := fun i hi => by
      have : (lo % 2 ^ 32).testBit i = false := by rw [hl]; exact Nat.zero_testBit i
      rw [Nat.testBit_mod_two_pow] at this
      simpa [hi] using this
    by_cases hh : hi % 2 ^ 32 = 0
    · rw [if_pos hh]
      rw [(pair64_eq_zero lo hi).mpr ⟨hl, hh⟩]
      exact ctz_eq_width 64 0 (fun i _ => Nat.zero_testBit i)
    · rw [if_neg hh]
      have hk := ctz_lt_of_ne_zero 32 hi hh
      obtain ⟨h1, h2, h3⟩ := ctz_spec 32 hi
      apply ctz_eq_of 64 _ _ (by omega)
      · rw [testBit_pair64]
        simp (disch := omega) only [decide_eq_true, decide_eq_false, Bool.true_and,
          Bool.false_and, Bool.false_or, Nat.add_sub_cancel_left, h2 hk]
      · intro i hi'
        rw [testBit_pair64]
        rcases Nat.lt_or_ge i 32 with h | h
        · simp (disch := omega) only [decide_eq_true, decide_eq_false, Bool.true_and,
            Bool.false_and, Bool.or_false, hlb i h]
        · simp (disch := omega) only [decide_eq_true, decide_eq_false, Bool.true_and,
            Bool.false_and, Bool.false_or, h3 (i - 32) (by omega)]
  · rw [if_neg hl]
    have hk := ctz_lt_of_ne_zero 32 lo hl
    obtain ⟨h1, h2, h3⟩ := ctz_spec 32 lo
    apply ctz_eq_of 64 _ _ (by omega)
    · rw [testBit_pair64]
      simp (disch := omega) only [decide_eq_true, decide_eq_false, Bool.true_and,
        Bool.false_and, Bool.or_false, h2 hk]
    · intro i hi'
      rw [testBit_pair64]
      simp (disch := omega) only [decide_eq_true, decide_eq_false, Bool.true_and,
        Bool.false_and, Bool.or_false, h3 i hi']

theorem ctzi_pair_value (lo hi c : Nat) (hc : c ≤ 0xffffffff) :
    (if lo % 2 ^ 32 = 0 then
        (((if hi % 2 ^ 32 = 0 then (c % 2 ^ 32 + 2 ^ 32 - 32) % 2 ^ 32 % 2 ^ 32
            else ctz 32 (hi % 2 ^ 32)) % 2 ^ 32 + 32 % 2 ^ 32) % 2 ^ 32) % 2 ^ 32
      else ctz 32 (lo % 2 ^ 32)) =
    if pair64 lo hi = 0 then c % 2 ^ 64 else ctz 64 (pair64 lo hi) := by
  have h1 := (ctz_spec 32 lo).1
  have h2 := (ctz_spec 32 hi).1
  have hz := pair64_eq_zero lo hi
  rw [ctz64_pair, ctz_mod, ctz_mod]
  by_cases hl : lo % 2 ^ 32 = 0
  · by_cases hh : hi % 2 ^ 32 = 0
    · have : pair64 lo hi = 0 := hz.mpr ⟨hl, hh⟩
      simp only [hh, hl, this, if_true]
      omega
    · have : ¬ pair64 lo hi = 0 := fun h => hh (hz.mp h).2
      simp only [hh, hl, this, if_true, if_false]
      omega
  · have : ¬ pair64 lo hi = 0 := fun h => hl (hz.mp h).1
    simp only [hl, this, if_false]

theorem tcg_gen_ctzi_i64_sem (T : TCGTarget) {r a n : Nat} (c : Nat) (hc : c < 2 ^ 64)
    (ha : a + T.w64 ≤ n) (hr : r + T.w64 ≤ n)
    (hra : r = a ∨ r + T.w64 ≤ a ∨ a + T.w64 ≤ r) :
    Sem (tcg_gen_ctzi_i64 T r a c) n
      (fun m => m.set64 T r (if m.get64 T a = 0 then c else ctz 64 (m.get64 T a))) := by
  have hw1 := w64_pos T
  have hz : ∀ x, ctz 64 x ≤ 64 := fun x => (ctz_spec 64 x).1
  have hL := Local.set64_1 T r (fun x => if x = 0 then c else ctz 64 x) ha
  unfold tcg_gen_ctzi_i64
  split
  · rename_i h
    obtain ⟨hT', h32, hc32⟩ := h
    have hT : T.reg64 = false := by simpa using hT'
    have hw := w64_of_reg32 hT
    simp only [TCGV_LOW, TCGV_HIGH]
    refine Sem.const _ hL
      (fun t ht => Sem.bind (tcg_gen_ctz_i32_sem T (r := t) (a := a + 1) (b := t) (by omega)
          (by omega) (by omega))
        (Sem.bind (tcg_gen_addi_i32_sem (r := t) (a := t) 32 (by omega))
        (Sem.bind (tcg_gen_ctz_i32_sem T (r := r) (a := a) (b := t) (by omega) (by omega)
          (by omega))
        (Sem.bind (tcg_gen_movi_i32_sem (r + 1) 0 _) (Sem.free t _)))))
      (fun t ht m => ?_)
    have hat : a ≠ t := by omega
    have hat1 : a + 1 ≠ t := by omega
    have hrt : t ≠ r := by omega
    have hrt1 : t ≠ r + 1 := by omega
    have hr1 : r ≠ r + 1 := by omega
    have ha1 : a + 1 ≠ r := by omega
    refine Agree.of_pair hT (by simp [Machine.set]) ?_ ?_ (fun i hi h1 h2 => ?_)
    · simp only [Function.comp, id, Machine.set_regs_self, Machine.set_regs_ne _ _ hat,
        Machine.set_regs_ne _ _ hat1, Machine.set_regs_ne _ _ hrt, Machine.set_regs_ne _ _ hr1,
        Nat.mod_mod]
      rw [Machine.get64_of_reg32 hT]
      have := ctzi_pair_value (m.regs a) (m.regs (a + 1)) c hc32
      simp only [Nat.mod_mod] at this
      rw [this, Nat.mod_eq_of_lt hc]
      have hp := pair64_lt (m.regs a) (m.regs (a + 1))
      have hz' := hz (pair64 (m.regs a) (m.regs (a + 1)))
      split <;> omega
    · simp only [Function.comp, id, Machine.set_regs_self]
      rw [Machine.get64_of_reg32 hT, Nat.shiftRight_eq_div_pow]
      have hz' := hz (pair64 (m.regs a) (m.regs (a + 1)))
      split <;> omega
    · have hit : i ≠ t := by omega
      simp only [Function.comp, id, Machine.set_regs_ne _ _ h1, Machine.set_regs_ne _ _ h2,
        Machine.set_regs_ne _ _ hit]
  · split
    · rename_i h
      obtain ⟨-, hp, rfl⟩ := h
      refine Sem.new64 T (fun t ht => Sem.bind
        (tcg_gen_subi_i64_sem T (r := t) (a := a) 1 (by omega) (by omega))
        (Sem.bind (tcg_gen_andc_i64_sem T (r := t) (a := t) (b := a) (by omega) (by omega)
          (by omega) (by omega))
        (Sem.bind (tcg_gen_ctpop_i64_sem T (r := r) (a := t) (by omega) (by omega) (by omega))
          (Sem.free64 t _)))) (fun t ht m => ?_) hL
      simp only [Function.comp, id]
      simp (disch := omega) only [Machine.get64_set64_self, Machine.get64_set64_ne]
      refine Agree.of_set64 T (by simp) ?_ (fun i hi hne => ?_)
      · congr 1
        rw [Nat.mod_mod, Nat.mod_eq_of_lt (lt_of_le_of_lt Nat.and_le_right (bnot_lt 64 _))]
        exact ctz_or_width_via_ctpop 64 _ (Machine.get64_lt T m a)
      · simp (disch := omega) only [Machine.set64_regs_ne]
    · exact Sem.imm64 T c (fun x y => if x = 0 then y else ctz 64 x)
        (fun x => if x = 0 then c else ctz 64 x) ha
        (fun t ht => tcg_gen_ctz_i64_sem T (by omega) (by omega) (by omega) (by omega))
        (fun x => by rw [Nat.mod_eq_of_lt hc])
theorem tcg_gen_mul_i32_sem {r a b n : Nat} (ha : a < n) (hb : b < n) :
    Sem (tcg_gen_mul_i32 r a b) n
      (fun m => m.set r ((m.regs a % 2 ^ 32 * (m.regs b % 2 ^ 32)) % 2 ^ 32)) :=
  Sem.op2 .mul_i32 (fun x y => (x % 2 ^ 32 * (y % 2 ^ 32)) % 2 ^ 32) (fun _ => rfl) ha hb

theorem Local.set_pair_of {n : Nat} (r1 r2 : Nat) {v1 v2 : Machine → Nat}
    (h1 : ∀ m m', Agree n m m' → v1 m = v1 m') (h2 : ∀ m m', Agree n m m' → v2 m = v2 m') :
    Local n (fun m => (m.set r1 (v1 m)).set r2 (v2 m)) := by
  intro N hN m m' h
  exact Agree.set (Agree.set h _ (h1 m m' (h.mono hN))) _ (h2 m m' (h.mono hN))

theorem tcg_gen_extrh_i64_i32_sem (T : TCGTarget) {r a n : Nat} (ha : a + T.w64 ≤ n) :
    Sem (tcg_gen_extrh_i64_i32 T r a) n
      (fun m => m.set r ((m.get64 T a >>> 32) % 2 ^ 32)) := by
  have hw1 := w64_pos T
  have hL : Local n (fun m => m.set r ((m.get64 T a >>> 32) % 2 ^ 32)) :=
    Local.set_of r (fun m m' h => by rw [h.get64 T ha])
  unfold tcg_gen_extrh_i64_i32
  cases hT : T.reg64
  · have hw := w64_of_reg32 hT
    simp only [Bool.false_eq_true, not_false_eq_true, if_true, TCGV_HIGH]
    refine (tcg_gen_mov_i32_sem (r := r) (a := a + 1) (by omega)).conseq
      (fun N _ m => Agree.set (Agree.refl _ _) _ ?_)
    rw [Machine.get64_of_reg32 hT, pair64_high]
  · have hw := w64_of_reg64 hT
    simp only [not_true_eq_false, if_false]
    split_ifs with c
    · refine (Sem.op1 .extrh_i64_i32 (fun x => (x % 2 ^ 64) >>> 32) (fun _ => rfl)
        (by omega)).conseq (fun N _ m => Agree.set (Agree.refl _ _) _ ?_)
      rw [Machine.get64_of_reg64 hT]
      have : (m.regs a % 2 ^ 64) >>> 32 < 2 ^ 32 := by
        rw [Nat.shiftRight_eq_div_pow]
        have := Nat.mod_lt (m.regs a) (show 0 < 2 ^ 64 by norm_num)
        omega
      rw [Nat.mod_eq_of_lt this]
    · refine Sem.new64 T (fun t ht => Sem.bind
        (tcg_gen_shri_i64_sem T (r := t) (a := a) (b := 32) (by norm_num) (by omega) (by omega)
          (by omega))
        (Sem.bind (tcg_gen_mov_i32_sem (r := r) (a := t) (by omega)) (Sem.free64 t _)))
        (fun t ht m => ?_) hL
      simp only [Function.comp, id]
      refine Agree.of_set (by simp [Machine.set64_of_reg64 hT, Machine.set]) ?_
        (fun i hi hne => ?_)
      · simp only [Machine.set_regs_self, Machine.set64_of_reg64 hT]
        rw [Nat.mod_eq_of_lt (shr_lt_two_pow64 _ _ (Machine.get64_lt T m a))]
      · rw [Machine.set_regs_ne _ _ hne]
        simp (disch := omega) only [Machine.set64_regs_ne]

theorem tcg_gen_extr_i64_i32_sem (T : TCGTarget) {lo hi a n : Nat} (ha : a + T.w64 ≤ n)
    (hlo : lo < a ∨ a + T.w64 ≤ lo) :
    Sem (tcg_gen_extr_i64_i32 T lo hi a) n
      (fun m => (m.set lo (m.get64 T a % 2 ^ 32)).set hi ((m.get64 T a >>> 32) % 2 ^ 32)) := by
  have hw1 := w64_pos T
  unfold tcg_gen_extr_i64_i32
  cases hT : T.reg64
  · have hw := w64_of_reg32 hT
    simp only [Bool.false_eq_true, not_false_eq_true, if_true, TCGV_LOW, TCGV_HIGH]
    refine (Sem.bind (tcg_gen_mov_i32_sem (r := lo) (a := a) (by omega))
      (tcg_gen_mov_i32_sem (r := hi) (a := a + 1) (by omega))).conseq (fun N _ m => ?_)
    have d : a + 1 ≠ lo := by omega
    simp only [Function.comp, Machine.set_regs, d, if_false]
    rw [Machine.get64_of_reg32 hT, pair64_low, pair64_high]
    exact Agree.refl _ _
  · have hw := w64_of_reg64 hT
    simp only [not_true_eq_false, if_false]
    refine (Sem.bind (tcg_gen_extrl_i64_i32_sem T (r := lo) (a := a) ha)
      (tcg_gen_extrh_i64_i32_sem T (r := hi) (a := a) ha)).conseq (fun N _ m => ?_)
    simp only [Function.comp]
    rw [Machine.get64_set_ne T m _ (by omega)]
    exact Agree.refl _ _

theorem tcg_gen_mul_i64_sem_reg64 (T : TCGTarget) (hT : T.reg64 = true) (fuel : Nat)
    {r a b n : Nat} (ha : a + T.w64 ≤ n) (hb : b + T.w64 ≤ n) :
    Sem (tcg_gen_mul_i64 T fuel r a b) n
      (fun m => m.set64 T r ((m.get64 T a * m.get64 T b) % 2 ^ 64)) := by
  have hw := w64_of_reg64 hT
  unfold tcg_gen_mul_i64
  simp only [hT, if_true]
  exact Sem.op2_64 hT .mul_i64 (fun x y => (x * y) % 2 ^ 64) (fun _ => rfl)
    (fun x y _ => Nat.mod_lt _ (by norm_num)) (by omega) (by omega)

theorem tcg_gen_mulu2_i32_sem (T : TCGTarget) (fuel : Nat) {rl rh a b n : Nat}
    (h : T.TCG_TARGET_HAS_mulu2_i32 = true ∨ T.TCG_TARGET_HAS_muluh_i32 = true ∨
      (T.reg64 = true ∧ 0 < fuel))
    (ha : a < n) (hb : b < n) (hrl : rl < n) (hrh : rh < n) (hne : rl ≠ rh) :
    Sem (tcg_gen_mulu2_i32 T fuel rl rh a b) n
      (fun m => (m.set rl ((m.regs a % 2 ^ 32 * (m.regs b % 2 ^ 32)) % 2 ^ 32)).set rh
        ((m.regs a % 2 ^ 32 * (m.regs b % 2 ^ 32)) / 2 ^ 32)) := by
  have hL : Local n (fun m : Machine =>
      (m.set rl ((m.regs a % 2 ^ 32 * (m.regs b % 2 ^ 32)) % 2 ^ 32)).set rh
        ((m.regs a % 2 ^ 32 * (m.regs b % 2 ^ 32)) / 2 ^ 32)) :=
    Local.set_pair_of rl rh (fun m m' h => by rw [h.2 a ha, h.2 b hb])
      (fun m m' h => by rw [h.2 a ha, h.2 b hb])
  have hprod : ∀ m : Machine, m.regs a % 2 ^ 32 * (m.regs b % 2 ^ 32) < 2 ^ 64 := fun m => by
    have h1 := Nat.mod_lt (m.regs a) (show 0 < 2 ^ 32 by norm_num)
    have h2 := Nat.mod_lt (m.regs b) (show 0 < 2 ^ 32 by norm_num)
    calc m.regs a % 2 ^ 32 * (m.regs b % 2 ^ 32) < 2 ^ 32 * 2 ^ 32 :=
          Nat.mul_lt_mul'' h1 h2
      _ = 2 ^ 64 := by norm_num
  unfold tcg_gen_mulu2_i32
  by_cases h1 : T.TCG_TARGET_HAS_mulu2_i32 = true
  · simp only [h1, if_true]
    unfold tcg_gen_op4
    have e : exec_op ⟨.mulu2_i32, [rl, rh, a, b]⟩ = fun m : Machine =>
        (m.set rl ((m.regs a % 2 ^ 32 * (m.regs b % 2 ^ 32)) % 2 ^ 32)).set rh
          ((m.regs a % 2 ^ 32 * (m.regs b % 2 ^ 32)) / 2 ^ 32) := rfl
    rw [← e]
    exact Sem.emit _ _ _ (e ▸ hL)
  simp only [h1, if_false, Bool.false_eq_true]
  by_cases h2 : T.TCG_TARGET_HAS_muluh_i32 = true
  · simp only [h2, if_true]
    refine Sem.new hL (fun t ht => Sem.bind
      (Sem.op2 .mul_i32 (r := t) (a := a) (b := b)
        (fun x y => (x % 2 ^ 32 * (y % 2 ^ 32)) % 2 ^ 32) (fun _ => rfl) (by omega) (by omega))
      (Sem.bind (Sem.op2 .muluh_i32 (r := rh) (a := a) (b := b)
        (fun x y => (x % 2 ^ 32 * (y % 2 ^ 32)) / 2 ^ 32) (fun _ => rfl) (by omega) (by omega))
      (Sem.bind (tcg_gen_mov_i32_sem (r := rl) (a := t) (by omega)) (Sem.free t _))))
      (fun t ht m => ?_)
    have d1 : a ≠ t := by omega
    have d2 : b ≠ t := by omega
    refine ⟨by simp [Machine.set, Function.comp], fun i hi => ?_⟩
    have d3 : i ≠ t := by omega
    simp only [Function.comp, id, Machine.set_regs, d1, d2, d3, if_false, if_true, Nat.mod_mod]
    have d4 : t ≠ rh := by omega
    by_cases hi1 : i = rl
    · subst hi1
      simp only [if_true, hne, if_false, d4, Nat.mod_mod]
    · by_cases hi2 : i = rh
      · subst hi2
        simp only [hi1, if_false, if_true]
      · simp only [hi1, hi2, if_false]
  simp only [h2, if_false, Bool.false_eq_true]
  obtain ⟨hT, hf⟩ : T.reg64 = true ∧ 0 < fuel := by tauto
  have hw := w64_of_reg64 hT
  obtain ⟨f, rfl⟩ : ∃ f, fuel = f + 1 := ⟨fuel - 1, by omega⟩
  simp only []
  refine Sem.new64_2 T (fun t ht => Sem.bind
    (tcg_gen_extu_i32_i64_sem T (r := t) (a := a) (by omega))
    (Sem.bind (tcg_gen_extu_i32_i64_sem T (r := t + T.w64) (a := b) (by omega))
    (Sem.bind (tcg_gen_mul_i64_sem_reg64 T hT f (r := t) (a := t) (b := t + T.w64) (by omega)
      (by omega))
    (Sem.bind (@tcg_gen_extr_i64_i32_sem T rl rh t _ (by omega) (by omega))
    (Sem.bind (Sem.free64 t _) (Sem.free64 (t + T.w64) _)))))) (fun t ht m => ?_) hL
  simp only [Function.comp, id]
  simp (disch := omega) only [Machine.get64_set64_self, Machine.get64_set64_ne,
    Machine.set64_regs_ne]
  have hx : m.regs a % 2 ^ 32 < 2 ^ 32 := Nat.mod_lt _ (by norm_num)
  have hy : m.regs b % 2 ^ 32 < 2 ^ 32 := Nat.mod_lt _ (by norm_num)
  rw [Nat.mod_eq_of_lt (lt_trans hx (by norm_num)), Nat.mod_eq_of_lt (lt_trans hy (by norm_num)),
    Nat.mod_mod, Nat.mod_eq_of_lt (hprod m), Nat.shiftRight_eq_div_pow]
  have hq : m.regs a % 2 ^ 32 * (m.regs b % 2 ^ 32) / 2 ^ 32 < 2 ^ 32 := by
    have := hprod m
    omega
  rw [Nat.mod_eq_of_lt hq]
  refine ⟨by simp [Machine.set, Machine.set64_of_reg64 hT], fun i hi => ?_⟩
  simp only [Machine.set_regs]
  by_cases hi2 : i = rh
  · simp only [hi2, if_true]
  · by_cases hi1 : i = rl
    · simp only [hi1, hne, if_false, if_true]
    · simp only [hi1, hi2, if_false]
      simp (disch := omega) only [Machine.set64_regs_ne]
theorem mul64_pair (al ah bl bh : Nat) :
    pair64 (al % 2 ^ 32 * (bl % 2 ^ 32) % 2 ^ 32)
        (((al % 2 ^ 32 * (bl % 2 ^ 32) / 2 ^ 32 % 2 ^ 32 +
                  al % 2 ^ 32 * (bh % 2 ^ 32) % 2 ^ 32 % 2 ^ 32) %
                2 ^ 32 %
              2 ^ 32 +
            ah % 2 ^ 32 * (bl % 2 ^ 32) % 2 ^ 32 % 2 ^ 32) %
          2 ^ 32) %
      2 ^ 64 =
    pair64 al ah * pair64 bl bh % 2 ^ 64 % 2 ^ 64 := by
  rw [pair64_eq_add, pair64_eq_add al ah, pair64_eq_add bl bh]
  generalize (al % 2 ^ 32) = x
  generalize (ah % 2 ^ 32) = xh
  generalize (bl % 2 ^ 32) = y
  generalize (bh % 2 ^ 32) = yh
  have e : (x + xh * 2 ^ 32) * (y + yh * 2 ^ 32) =
      x * y + (x * yh + xh * y) * 2 ^ 32 + (xh * yh) * 2 ^ 64 := by ring
  rw [e]
  generalize (x * y) = P
  generalize (x * yh) = Q
  generalize (xh * y) = R
  generalize (xh * yh) = S
  omega

theorem tcg_gen_mul_i64_sem (T : TCGTarget) (fuel : Nat) {r a b n : Nat}
    (h : T.reg64 = true ∨
      (0 < fuel ∧ (T.TCG_TARGET_HAS_mulu2_i32 = true ∨ T.TCG_TARGET_HAS_muluh_i32 = true)))
    (ha : a + T.w64 ≤ n) (hb : b + T.w64 ≤ n) (hr : r + T.w64 ≤ n) :
    Sem (tcg_gen_mul_i64 T fuel r a b) n
      (fun m => m.set64 T r ((m.get64 T a * m.get64 T b) % 2 ^ 64)) := by
  have hw1 := w64_pos T
  cases hT : T.reg64
  · have hw := w64_of_reg32 hT
    obtain ⟨hf, hcap⟩ : 0 < fuel ∧ (T.TCG_TARGET_HAS_mulu2_i32 = true ∨
        T.TCG_TARGET_HAS_muluh_i32 = true) := by
      rcases h with h | h
      · rw [hT] at h; exact absurd h (by simp)
      · exact h
    obtain ⟨f, rfl⟩ : ∃ f, fuel = f + 1 := ⟨fuel - 1, by omega⟩
    unfold tcg_gen_mul_i64
    simp only [hT, Bool.false_eq_true, if_false, TCGV_LOW, TCGV_HIGH]
    have hcap' : T.TCG_TARGET_HAS_mulu2_i32 = true ∨ T.TCG_TARGET_HAS_muluh_i32 = true ∨
        (T.reg64 = true ∧ 0 < f) := by tauto
    refine Sem.new64 T
      (F := fun t m => (m.set64 T t ((m.get64 T a * m.get64 T b) % 2 ^ 64)).set64 T r
        ((m.get64 T a * m.get64 T b) % 2 ^ 64))
      (fun t ht => Sem.new ?_
      (fun u hu => Sem.bind
        (@tcg_gen_mulu2_i32_sem T f t (t + 1) a b _ hcap'
          (by omega) (by omega) (by omega) (by omega) (by omega))
        (Sem.bind (tcg_gen_mul_i32_sem (r := u) (a := a) (b := b + 1) (by omega) (by omega))
        (Sem.bind (tcg_gen_add_i32_sem (r := t + 1) (a := t + 1) (b := u) (by omega) (by omega))
        (Sem.bind (tcg_gen_mul_i32_sem (r := u) (a := a + 1) (b := b) (by omega) (by omega))
        (Sem.bind (tcg_gen_add_i32_sem (r := t + 1) (a := t + 1) (b := u) (by omega) (by omega))
        (Sem.bind (tcg_gen_mov_i64_sem T (r := r) (a := t) (by omega) (by omega))
        (Sem.bind (Sem.free64 t _) (Sem.free u _))))))))
      (fun u hu m => ?_)) (fun t ht m => ?_)
      (Local.set64_2 T r (fun x y => (x * y) % 2 ^ 64) ha hb)
    · intro N hN m m' hA
      have e := (hA.mono hN).get64 T (t := a) (by omega)
      have e' := (hA.mono hN).get64 T (t := b) (by omega)
      simp only [e, e']
      exact (hA.set64 T t rfl).set64 T r rfl
    · have da : a ≠ t := by omega
      have da1 : a ≠ t + 1 := by omega
      have da2 : a + 1 ≠ t := by omega
      have da3 : a + 1 ≠ t + 1 := by omega
      have db : b ≠ t := by omega
      have db1 : b ≠ t + 1 := by omega
      have db2 : b + 1 ≠ t := by omega
      have db3 : b + 1 ≠ t + 1 := by omega
      have du : a ≠ u := by omega
      have du1 : a + 1 ≠ u := by omega
      have du2 : b ≠ u := by omega
      have du3 : b + 1 ≠ u := by omega
      have dt : t ≠ u := by omega
      have dt1 : t + 1 ≠ u := by omega
      have dt2 : t ≠ t + 1 := by omega
      simp only [Function.comp, id]
      refine Agree.of_set64 T (by simp [Machine.set, Machine.set64_of_reg32 hT, Machine.setPair]) ?_ (fun i hi hne => ?_)
      · rw [Machine.get64_of_reg32 hT, ← Machine.get64_pair hT m a, ← Machine.get64_pair hT m b]
        simp (disch := omega) only [TCGV_LOW, TCGV_HIGH, Machine.set_regs, if_neg, if_true]
        exact mul64_pair _ _ _ _
      · have hP := mul64_pair (m.regs a) (m.regs (a + 1)) (m.regs b) (m.regs (b + 1))
        rw [Nat.mod_eq_of_lt (pair64_lt _ _)] at hP
        simp only [Nat.mod_mod] at hP
        rw [Machine.set64_of_reg32 hT, Machine.get64_of_reg32 hT, Machine.get64_of_reg32 hT]
        simp (disch := omega) only [TCGV_LOW, TCGV_HIGH, Machine.set_regs, Machine.setPair, if_neg, if_true]
        by_cases h1 : i = t
        · subst h1
          simp (disch := omega) only [if_neg, if_true]
          rw [← hP, pair64_low, Nat.mod_mod]
        · by_cases h2 : i = t + 1
          · subst h2
            simp (disch := omega) only [if_neg, if_true]
            rw [← hP, pair64_high]
            simp only [Nat.mod_mod]
          · have h3 : i ≠ u := by omega
            simp (disch := omega) only [if_neg, if_true]
    · refine Agree.of_set64 T (by simp [Machine.set64_of_reg32 hT, Machine.setPair, Machine.set])
        rfl (fun i hi hne => ?_)
      exact Machine.set64_regs_ne T _ _ (by omega)
  · exact tcg_gen_mul_i64_sem_reg64 T hT fuel ha hb

theorem Gen.bind_fails_right {α β : Type} (g : Gen α) (k : α → Gen β)
    (h : ∀ a s, (k a s).1 = none) (s : TCGContext) : ((g >>= k) s).1 = none := by
  rw [Gen.bind_apply]
  unfold Gen.andThen
  split
  · exact h _ _
  · rfl

theorem Gen.bind_fails_left {α β : Type} (g : Gen α) (k : α → Gen β)
    (h : ∀ s, (g s).1 = none) (s : TCGContext) : ((g >>= k) s).1 = none := by
  rw [Gen.bind_apply]
  unfold Gen.andThen
  have := h s
  split
  · rename_i e; rw [e] at this; exact absurd this (by simp)
  · rfl

/-- On a 32-bit host with neither the native unsigned wide multiply nor the
native unsigned high multiply, the two routines call each other at every depth:
no call depth yields a result. -/
theorem mul_fuel_never_returns (T : TCGTarget) (hT : T.reg64 = false)
    (h1 : T.TCG_TARGET_HAS_mulu2_i32 = false) (h2 : T.TCG_TARGET_HAS_muluh_i32 = false)
    (fuel : Nat) :
    (∀ r a b s, (tcg_gen_mul_i64 T fuel r a b s).1 = none) ∧
    (∀ rl rh a b s, (tcg_gen_mulu2_i32 T fuel rl rh a b s).1 = none) := by
  induction fuel with
  | zero =>
    constructor
    · intro r a b s
      unfold tcg_gen_mul_i64
      simp only [hT, Bool.false_eq_true, if_false]
      rfl
    · intro rl rh a b s
      unfold tcg_gen_mulu2_i32
      simp only [h1, h2, Bool.false_eq_true, if_false]
      rfl
  | succ f ih =>
    constructor
    · intro r a b s
      unfold tcg_gen_mul_i64
      simp only [hT, Bool.false_eq_true, if_false]
      refine Gen.bind_fails_right _ _ (fun t0 s1 => ?_) s
      refine Gen.bind_fails_right _ _ (fun t1 s2 => ?_) s1
      exact Gen.bind_fails_left _ _ (ih.2 _ _ _ _) s2
    · intro rl rh a b s
      unfold tcg_gen_mulu2_i32
      simp only [h1, h2, Bool.false_eq_true, if_false]
      refine Gen.bind_fails_right _ _ (fun t0 s1 => ?_) s
      refine Gen.bind_fails_right _ _ (fun t1 s2 => ?_) s1
      refine Gen.bind_fails_right _ _ (fun _ s3 => ?_) s2
      refine Gen.bind_fails_right _ _ (fun _ s4 => ?_) s3
      exact Gen.bind_fails_left _ _ (ih.1 _ _ _) s4

theorem mul64_words (al ah bl bh : Nat) :
    ((al % 2 ^ 32 + (ah % 2 ^ 32) * 2 ^ 32) * (bl % 2 ^ 32 + (bh % 2 ^ 32) * 2 ^ 32)) % 2 ^ 64 =
      ((al % 2 ^ 32) * (bl % 2 ^ 32)) % 2 ^ 32 +
        (((al % 2 ^ 32) * (bl % 2 ^ 32) / 2 ^ 32 + (al % 2 ^ 32) * (bh % 2 ^ 32) +
          (ah % 2 ^ 32) * (bl % 2 ^ 32)) % 2 ^ 32) * 2 ^ 32 := by
  generalize (al % 2 ^ 32) = x
  generalize (ah % 2 ^ 32) = xh
  generalize (bl % 2 ^ 32) = y
  generalize (bh % 2 ^ 32) = yh
  have e : (x + xh * 2 ^ 32) * (y + yh * 2 ^ 32) =
      x * y + (x * yh + xh * y) * 2 ^ 32 + (xh * yh) * 2 ^ 64 := by ring
  rw [e]
  generalize (x * y) = P
  generalize (x * yh) = Q
  generalize (xh * y) = R
  generalize (xh * yh) = S
  omega

theorem tcg_gen_add2_i64_sem (T : TCGTarget) {rl rh al ah bl bh n : Nat}
    (hcap : T.TCG_TARGET_HAS_add2_i64 = false)
    (hal : al + T.w64 ≤ n) (hah : ah + T.w64 ≤ n) (hbl : bl + T.w64 ≤ n)
    (hbh : bh + T.w64 ≤ n) (hrl : rl + T.w64 ≤ n) (hrh : rh + T.w64 ≤ n)
    (hsep : rl + T.w64 ≤ rh ∨ rh + T.w64 ≤ rl) :
    Sem (tcg_gen_add2_i64 T rl rh al ah bl bh) n
      (fun m => (m.set64 T rh ((m.get64 T ah + m.get64 T bh +
          (if (m.get64 T al + m.get64 T bl) % 2 ^ 64 < m.get64 T al then 1 else 0)) %
            2 ^ 64)).set64 T rl ((m.get64 T al + m.get64 T bl) % 2 ^ 64)) := by
  have hw1 := w64_pos T
  have hL : Local n (fun m => (m.set64 T rh ((m.get64 T ah + m.get64 T bh +
          (if (m.get64 T al + m.get64 T bl) % 2 ^ 64 < m.get64 T al then 1 else 0)) %
            2 ^ 64)).set64 T rl ((m.get64 T al + m.get64 T bl) % 2 ^ 64)) := by
    intro N hN m m' h
    show Agree N (Machine.set64 T (Machine.set64 T m rh _) rl _)
      (Machine.set64 T (Machine.set64 T m' rh _) rl _)
    rw [(h.mono hN).get64 T hal, (h.mono hN).get64 T hah, (h.mono hN).get64 T hbl,
      (h.mono hN).get64 T hbh]
    exact (h.set64 T rh rfl).set64 T rl rfl
  unfold tcg_gen_add2_i64
  simp only [hcap, Bool.false_eq_true, if_false]
  refine Sem.new64_2 T (fun t ht => Sem.bind
    (tcg_gen_add_i64_sem T (r := t) (a := al) (b := bl) (by omega) (by omega))
    (Sem.bind (tcg_gen_setcond_i64_sem T (r := t + T.w64) (a := t) (b := al) .LTU
      (by omega) (by omega))
    (Sem.bind (tcg_gen_add_i64_sem T (r := rh) (a := ah) (b := bh) (by omega) (by omega))
    (Sem.bind (tcg_gen_add_i64_sem T (r := rh) (a := rh) (b := t + T.w64) (by omega) (by omega))
    (Sem.bind (tcg_gen_mov_i64_sem T (r := rl) (a := t) (by omega) (by omega))
    (Sem.bind (Sem.free64 t _) (Sem.free64 (t + T.w64) _))))))) (fun t ht m => ?_) hL
  simp only [Function.comp, id]
  simp (disch := omega) only [Machine.get64_set64_self, Machine.get64_set64_ne,
    Machine.set64_regs_ne]
  refine Agree.set64 T (Agree.of_set64 T (by simp) ?_ (fun i hi hne => ?_)) rl ?_
  · have hl := Machine.get64_lt T m al
    simp only [TCGCond.eval, Nat.mod_mod, decide_eq_true_eq, Nat.mod_eq_of_lt hl]
    split <;> omega
  · simp (disch := omega) only [Machine.set64_regs_ne]
  · simp only [Nat.mod_mod]

theorem tcg_gen_sub2_i64_sem (T : TCGTarget) {rl rh al ah bl bh n : Nat}
    (hcap : T.TCG_TARGET_HAS_sub2_i64 = false)
    (hal : al + T.w64 ≤ n) (hah : ah + T.w64 ≤ n) (hbl : bl + T.w64 ≤ n)
    (hbh : bh + T.w64 ≤ n) (hrl : rl + T.w64 ≤ n) (hrh : rh + T.w64 ≤ n)
    (hsep : rl + T.w64 ≤ rh ∨ rh + T.w64 ≤ rl) :
    Sem (tcg_gen_sub2_i64 T rl rh al ah bl bh) n
      (fun m => (m.set64 T rh ((m.get64 T ah + 2 ^ 64 + 2 ^ 64 - m.get64 T bh -
          (if m.get64 T al < m.get64 T bl then 1 else 0)) %
            2 ^ 64)).set64 T rl ((m.get64 T al + 2 ^ 64 - m.get64 T bl) % 2 ^ 64)) := by
  have hw1 := w64_pos T
  have hL : Local n (fun m => (m.set64 T rh ((m.get64 T ah + 2 ^ 64 + 2 ^ 64 - m.get64 T bh -
          (if m.get64 T al < m.get64 T bl then 1 else 0)) %
            2 ^ 64)).set64 T rl ((m.get64 T al + 2 ^ 64 - m.get64 T bl) % 2 ^ 64)) := by
    intro N hN m m' h
    show Agree N (Machine.set64 T (Machine.set64 T m rh _) rl _)
      (Machine.set64 T (Machine.set64 T m' rh _) rl _)
    rw [(h.mono hN).get64 T hal, (h.mono hN).get64 T hah, (h.mono hN).get64 T hbl,
      (h.mono hN).get64 T hbh]
    exact (h.set64 T rh rfl).set64 T rl rfl
  unfold tcg_gen_sub2_i64
  simp only [hcap, Bool.false_eq_true, if_false]
  refine Sem.new64_2 T (fun t ht => Sem.bind
    (tcg_gen_sub_i64_sem T (r := t) (a := al) (b := bl) (by omega) (by omega))
    (Sem.bind (tcg_gen_setcond_i64_sem T (r := t + T.w64) (a := al) (b := bl) .LTU
      (by omega) (by omega))
    (Sem.bind (tcg_gen_sub_i64_sem T (r := rh) (a := ah) (b := bh) (by omega) (by omega))
    (Sem.bind (tcg_gen_sub_i64_sem T (r := rh) (a := rh) (b := t + T.w64) (by omega) (by omega))
    (Sem.bind (tcg_gen_mov_i64_sem T (r := rl) (a := t) (by omega) (by omega))
    (Sem.bind (Sem.free64 t _) (Sem.free64 (t + T.w64) _))))))) (fun t ht m => ?_) hL
  simp only [Function.comp, id]
  simp (disch := omega) only [Machine.get64_set64_self, Machine.get64_set64_ne,
    Machine.set64_regs_ne]
  refine Agree.set64 T (Agree.of_set64 T (by simp) ?_ (fun i hi hne => ?_)) rl ?_
  · have hl := Machine.get64_lt T m al
    have hl2 := Machine.get64_lt T m bl
    have hl3 := Machine.get64_lt T m ah
    have hl4 := Machine.get64_lt T m bh
    simp only [TCGCond.eval, Nat.mod_mod, decide_eq_true_eq, Nat.mod_eq_of_lt hl,
      Nat.mod_eq_of_lt hl2]
    split <;> omega
  · simp (disch := omega) only [Machine.set64_regs_ne]
  · simp only [Nat.mod_mod]

theorem sar_sign_and (w x y : Nat) (hw : 0 < w) (hy : y < 2 ^ w)
    (hb : x.testBit (w - 1) = decide (2 ^ (w - 1) ≤ x)) :
    sar w x (w - 1) &&& y = if 2 ^ (w - 1) ≤ x then y else 0 := by
  apply Nat.eq_of_testBit_eq; intro i
  rw [Nat.testBit_and, testBit_sar, hb]
  have hyi : w ≤ i → y.testBit i = false := fun h =>
    Nat.testBit_lt_two_pow (lt_of_lt_of_le hy (Nat.pow_le_pow_right (by norm_num) h))
  by_cases h : 2 ^ (w - 1) ≤ x
  · simp only [h, decide_True, if_true, Bool.true_and]
    rcases Nat.lt_or_ge i w with hi | hi
    · rcases Nat.eq_zero_or_pos i with h0 | h0
      · subst h0
        simp (disch := omega) only [decide_eq_true, decide_eq_false, Bool.and_true,
          Bool.true_and, Bool.false_and, Bool.and_false, Bool.or_false, Bool.false_or,
          Nat.add_zero, hb, h, decide_True]
      · simp (disch := omega) only [decide_eq_true, decide_eq_false, Bool.and_true,
          Bool.true_and, Bool.false_and, Bool.and_false, Bool.or_false, Bool.false_or]
    · rw [hyi hi]
      simp
  · simp only [h, decide_False, if_false, Bool.false_and, Bool.or_false, Nat.zero_testBit]
    rcases Nat.lt_or_ge i w with hi | hi
    · rcases Nat.eq_zero_or_pos i with h0 | h0
      · subst h0
        simp (disch := omega) only [decide_eq_true, decide_eq_false, Bool.and_true,
          Bool.true_and, Bool.false_and, Bool.and_false, Bool.or_false, Bool.false_or,
          Nat.add_zero, hb, h, decide_False]
      · simp (disch := omega) only [decide_eq_true, decide_eq_false, Bool.and_true,
          Bool.true_and, Bool.false_and, Bool.and_false, Bool.or_false, Bool.false_or]
    · rw [hyi hi]
      simp

theorem testBit_31 (x : Nat) (hx : x < 2 ^ 32) : x.testBit 31 = decide (2 ^ 31 ≤ x) := by
  rw [Nat.testBit_to_div_mod]
  congr 1
  apply propext
  constructor <;> intro h <;> omega

theorem testBit_63 (x : Nat) (hx : x < 2 ^ 64) : x.testBit 63 = decide (2 ^ 63 ≤ x) := by
  rw [Nat.testBit_to_div_mod]
  congr 1
  apply propext
  constructor <;> intro h <;> omega


theorem sext_64_32 (x : Nat) (hx : x < 2 ^ 32) :
    sext 64 32 x = x + (if 2 ^ 31 ≤ x then 2 ^ 64 - 2 ^ 32 else 0) := by
  unfold sext
  rw [Nat.mod_eq_of_lt hx, show 32 - 1 = 31 from rfl, testBit_31 x hx]
  by_cases h : 2 ^ 31 ≤ x
  · simp only [h, decide_True, if_true]
    have h2 : (2 ^ 32 - 1) % 2 ^ 32 = 2 ^ 32 - 1 := by norm_num
    have e := pair64_eq_add x (2 ^ 32 - 1)
    unfold pair64 at e
    rw [Nat.mod_eq_of_lt hx, h2] at e
    show x ||| (2 ^ 32 - 1) <<< 32 = _
    rw [e]
    norm_num
  · simp only [h, decide_False, if_false, Bool.false_eq_true]
    simp

theorem sext_low (w l x : Nat) (h : 0 < l) : sext w l (x % 2 ^ l) = sext w l x := by
  apply Nat.eq_of_testBit_eq; intro i
  simp only [testBit_sext, Nat.testBit_mod_two_pow]
  have : decide (l - 1 < l) = true := by simp; omega
  rw [this]
  rcases Nat.lt_or_ge i l with hi | hi
  all_goals simp (disch := omega) only [decide_eq_true, decide_eq_false, Bool.and_true,
      Bool.true_and, Bool.false_and, Bool.and_false, Bool.or_false, Bool.false_or]

theorem pow2_of_and_pred (w x : Nat) (hx : x < 2 ^ w) (h0 : x ≠ 0) (h : x &&& (x - 1) = 0) :
    ctz w x < w ∧ x = 2 ^ ctz w x := by
  have hk := ctz_lt_of_ne_zero w x (by rw [Nat.mod_eq_of_lt hx]; exact h0)
  obtain ⟨h1, h2, h3⟩ := ctz_spec w x
  refine ⟨hk, ?_⟩
  apply Nat.eq_of_testBit_eq; intro i
  rw [Nat.testBit_two_pow]
  rcases Nat.lt_trichotomy i (ctz w x) with hi | hi | hi
  · rw [h3 i hi]
    simp only [Bool.false_eq, decide_eq_false_iff_not]
    omega
  · rw [hi, h2 hk]
    simp
  · have e : (x &&& (x - 1)).testBit i = false := by rw [h]; exact Nat.zero_testBit i
    rw [Nat.testBit_and, testBit_pred x _ (h2 hk) h3, if_neg (by omega), if_neg (by omega),
      Bool.and_self] at e
    rw [e]
    simp only [Bool.false_eq, decide_eq_false_iff_not]
    omega

theorem is_power_of_2_spec (w x : Nat) (hx : x < 2 ^ w) (h : is_power_of_2 x = true) :
    ctz w x < w ∧ x = 2 ^ ctz w x := by
  unfold is_power_of_2 at h
  simp only [Bool.and_eq_true, decide_eq_true_eq] at h
  exact pow2_of_and_pred w x hx h.1 h.2

theorem is_power_of_2_sext (c : Nat) (hc : c < 2 ^ 32) (h : is_power_of_2 (sext 64 32 c) = true) :
    ctz 32 c < 32 ∧ c = 2 ^ ctz 32 c := by
  obtain ⟨hk, e⟩ := is_power_of_2_spec 64 _ (sext_lt 64 32 c (by norm_num)) h
  have hc0 : c < 2 ^ 31 := by
    by_contra hge
    have hge : 2 ^ 31 ≤ c := by omega
    have b31 : (sext 64 32 c).testBit 31 = true := by
      rw [testBit_sext, testBit_31 c hc, decide_eq_true hge]
      simp
    have b63 : (sext 64 32 c).testBit 63 = true := by
      rw [testBit_sext, testBit_31 c hc, decide_eq_true hge]
      simp
    rw [e, Nat.testBit_two_pow] at b31 b63
    simp only [decide_eq_true_eq] at b31 b63
    omega
  have e2 : sext 64 32 c = c := by
    rw [sext_64_32 c hc, if_neg (by omega)]
    rfl
  rw [e2] at e hk
  have hb : c.testBit (ctz 64 c) = true := by
    have := Nat.testBit_two_pow_self (n := ctz 64 c)
    rw [← e] at this
    exact this
  have hk32 : ctz 64 c < 32 := by
    by_contra hge
    have : c.testBit (ctz 64 c) = false :=
      Nat.testBit_lt_two_pow (lt_of_lt_of_le hc (Nat.pow_le_pow_right (by norm_num) (by omega)))
    rw [hb] at this
    exact absurd this (by simp)
  have e3 : ctz 32 c = ctz 64 c :=
    ctz_eq_of 32 c _ hk32 hb (ctz_spec 64 c).2.2
  rw [e3]
  exact ⟨hk32, e⟩

theorem tcg_gen_muli_i32_sem {r a n : Nat} (c : Nat) (hc : c < 2 ^ 32) (h1 : a < n) :
    Sem (tcg_gen_muli_i32 r a c) n
      (fun m => m.set r ((m.regs a % 2 ^ 32 * c) % 2 ^ 32)) := by
  have hL : Local n (fun m : Machine => m.set r ((m.regs a % 2 ^ 32 * c) % 2 ^ 32)) :=
    Local.set1 r (fun x => (x % 2 ^ 32 * c) % 2 ^ 32) h1
  unfold tcg_gen_muli_i32
  by_cases h0 : c = 0
  · subst h0
    simp only [if_true]
    refine (tcg_gen_movi_i32_sem r 0 n).conseq (fun N _ m => ?_)
    simp [Agree.refl]
  simp only [h0, if_false]
  by_cases hp : is_power_of_2 (sext 64 32 c) = true
  · simp only [hp, if_true]
    obtain ⟨hk, e⟩ := is_power_of_2_sext c hc hp
    refine (tcg_gen_shli_i32_sem (r := r) (a := a) hk h1).conseq (fun N _ m => ?_)
    refine Agree.set (Agree.refl _ _) _ ?_
    rw [Nat.shiftLeft_eq, ← e]
  · simp only [hp, if_false, Bool.false_eq_true]
    refine Sem.const c hL (fun t ht => Sem.bind
      (tcg_gen_mul_i32_sem (r := r) (a := a) (b := t) (by omega) (by omega))
      (Sem.free t _)) (fun t ht m => ?_)
    have d1 : a ≠ t := by omega
    refine ⟨by simp [Machine.set, Function.comp], fun i hi => ?_⟩
    have d3 : i ≠ t := by omega
    simp only [Function.comp, id, Machine.set_regs, d1, d3, if_false, if_true, Nat.mod_mod,
      Nat.mod_eq_of_lt hc]

theorem tcg_gen_muli_i64_sem (T : TCGTarget) (fuel : Nat) {r a n : Nat} (c : Nat)
    (hc : c < 2 ^ 64)
    (h : T.reg64 = true ∨
      (0 < fuel ∧ (T.TCG_TARGET_HAS_mulu2_i32 = true ∨ T.TCG_TARGET_HAS_muluh_i32 = true)) ∨
      c = 0 ∨ is_power_of_2 c = true)
    (h1 : a + T.w64 ≤ n) (hr : r + T.w64 ≤ n)
    (hra : r = a ∨ r + T.w64 ≤ a ∨ a + T.w64 ≤ r) :
    Sem (tcg_gen_muli_i64 T fuel r a c) n
      (fun m => m.set64 T r ((m.get64 T a * c) % 2 ^ 64)) := by
  have hw1 := w64_pos T
  have hL : Local n (fun m : Machine => m.set64 T r ((m.get64 T a * c) % 2 ^ 64)) :=
    Local.set64_1 T r (fun x => (x * c) % 2 ^ 64) h1
  unfold tcg_gen_muli_i64
  by_cases h0 : c = 0
  · subst h0
    simp only [if_true]
    refine (tcg_gen_movi_i64_sem T r 0 n).conseq (fun N _ m => ?_)
    simp [Agree.refl]
  simp only [h0, if_false]
  by_cases hp : is_power_of_2 c = true
  · simp only [hp, if_true]
    obtain ⟨hk, e⟩ := is_power_of_2_spec 64 c hc hp
    refine (tcg_gen_shli_i64_sem T (r := r) (a := a) hk h1 hr hra).conseq (fun N _ m => ?_)
    refine Agree.set64 T (Agree.refl _ _) _ ?_
    rw [Nat.shiftLeft_eq, ← e]
  · simp only [hp, if_false, Bool.false_eq_true]
    have hcap : T.reg64 = true ∨
        (0 < fuel ∧ (T.TCG_TARGET_HAS_mulu2_i32 = true ∨ T.TCG_TARGET_HAS_muluh_i32 = true)) := by
      tauto
    refine Sem.const64 T c (fun t ht => Sem.bind
      (tcg_gen_mul_i64_sem T fuel (r := r) (a := a) (b := t) hcap (by omega) (by omega)
        (by omega))
      (Sem.free64 t _)) (fun t ht m => ?_) hL
    simp only [Function.comp, id]
    simp (disch := omega) only [Machine.get64_set64_self, Machine.get64_set64_ne,
      Machine.set64_regs_ne]
    refine Agree.of_set64 T (by simp) ?_ (fun i hi hne => ?_)
    · rw [Nat.mod_eq_of_lt hc]
    · simp (disch := omega) only [Machine.set64_regs_ne]


theorem mem_accesses_append (l1 l2 : List TCGOp) :
    mem_accesses (l1 ++ l2) = mem_accesses l1 ++ mem_accesses l2 := by
  unfold mem_accesses
  exact List.filter_append _ _

theorem quiet_pure {α : Type} (a : α) : Quiet (pure a : Gen α) :=
  fun _ => rfl

theorem quiet_bind {α β : Type} {x : Gen α} {f : α → Gen β} (hx : Quiet x)
    (hf : ∀ a, Quiet (f a)) : Quiet (x >>= f) := by
  intro s
  rw [Gen.bind_apply]
  have h1 := hx s
  rcases h : x s with ⟨_ | a, s'⟩
  · rw [h] at h1; exact h1
  · rw [h] at h1; exact (hf a s').trans h1

theorem quiet_ite {α : Type} (c : Prop) [Decidable c] {g h : Gen α} (hg : Quiet g)
    (hh : Quiet h) : Quiet (if c then g else h) := by
  split <;> assumption

theorem quiet_dite {α : Type} (c : Prop) [Decidable c] {g : c → Gen α} {h : ¬ c → Gen α}
    (hg : ∀ p, Quiet (g p)) (hh : ∀ p, Quiet (h p)) :
    Quiet (if p : c then g p else h p) := by
  split
  · exact hg _
  · exact hh _

theorem quiet_abort {α : Type} : Quiet (tcg_abort : Gen α) :=
  fun _ => rfl

theorem quiet_assert (c : Bool) : Quiet (tcg_debug_assert c) := by
  intro s
  unfold tcg_debug_assert
  split <;> rfl

theorem quiet_emit (opc : TCGOpcode) (args : List TCGArg) (h : opc.is_qemu_ldst = false) :
    Quiet (tcg_emit_op opc args) := by
  intro s
  show mem_accesses (s.ops ++ [⟨opc, args⟩]) = mem_accesses s.ops
  rw [mem_accesses_append]
  simp [mem_accesses, h]

theorem quiet_new_i32 : Quiet tcg_temp_new_i32 :=
  fun _ => rfl

theorem quiet_cflags : Quiet tb_cflags :=
  fun _ => rfl

theorem tcg_gen_op1_quiet (opc : TCGOpcode) (a1 : TCGArg) (hopc : opc.is_qemu_ldst = false) :
    Quiet (tcg_gen_op1 opc a1) := by
  unfold tcg_gen_op1
  repeat' (first | with_reducible (first
    | exact quiet_pure _ | exact quiet_abort | exact quiet_assert _
    | exact quiet_emit _ _ (by assumption) | exact quiet_emit _ _ (by decide)
    | exact quiet_new_i32 | exact quiet_cflags | apply quiet_bind | apply quiet_ite
    | apply quiet_dite | intro _ | dsimp only [])
                  | decide | split)

theorem tcg_gen_op2_quiet (opc : TCGOpcode) (a1 a2 : TCGArg) (hopc : opc.is_qemu_ldst = false) :
    Quiet (tcg_gen_op2 opc a1 a2) := by
  unfold tcg_gen_op2
  repeat' (first | with_reducible (first
    | exact quiet_pure _ | exact quiet_abort | exact quiet_assert _
    | exact quiet_emit _ _ (by assumption) | exact quiet_emit _ _ (by decide)
    | exact quiet_new_i32 | exact quiet_cflags | apply quiet_bind | apply quiet_ite
    | apply quiet_dite | intro _ | dsimp only [])
                  | decide | split)

theorem tcg_gen_op3_quiet (opc : TCGOpcode) (a1 a2 a3 : TCGArg) (hopc : opc.is_qemu_ldst = false) :
    Quiet (tcg_gen_op3 opc a1 a2 a3) := by
  unfold tcg_gen_op3
  repeat' (first | with_reducible (first
    | exact quiet_pure _ | exact quiet_abort | exact quiet_assert _
    | exact quiet_emit _ _ (by assumption) | exact quiet_emit _ _ (by decide)
    | exact quiet_new_i32 | exact quiet_cflags | apply quiet_bind | apply quiet_ite
    | apply quiet_dite | intro _ | dsimp only [])
                  | decide | split)

theorem tcg_gen_op4_quiet (opc : TCGOpcode) (a1 a2 a3 a4 : TCGArg) (hopc : opc.is_qemu_ldst = false) :
    Quiet (tcg_gen_op4 opc a1 a2 a3 a4) := by
  unfold tcg_gen_op4
  repeat' (first | with_reducible (first
    | exact quiet_pure _ | exact quiet_abort | exact quiet_assert _
    | exact quiet_emit _ _ (by assumption) | exact quiet_emit _ _ (by decide)
    | exact quiet_new_i32 | exact quiet_cflags | apply quiet_bind | apply quiet_ite
    | apply quiet_dite | intro _ | dsimp only [])
                  | decide | split)

theorem tcg_gen_op5_quiet (opc : TCGOpcode) (a1 a2 a3 a4 a5 : TCGArg) (hopc : opc.is_qemu_ldst = false) :
    Quiet (tcg_gen_op5 opc a1 a2 a3 a4 a5) := by
  unfold tcg_gen_op5
  repeat' (first | with_reducible (first
    | exact quiet_pure _ | exact quiet_abort | exact quiet_assert _
    | exact quiet_emit _ _ (by assumption) | exact quiet_emit _ _ (by decide)
    | exact quiet_new_i32 | exact quiet_cflags | apply quiet_bind | apply quiet_ite
    | apply quiet_dite | intro _ | dsimp only [])
                  | decide | split)

theorem tcg_gen_op6_quiet (opc : TCGOpcode) (a1 a2 a3 a4 a5 a6 : TCGArg) (hopc : opc.is_qemu_ldst = false) :
    Quiet (tcg_gen_op6 opc a1 a2 a3 a4 a5 a6) := by
  unfold tcg_gen_op6
  repeat' (first | with_reducible (first
    | exact quiet_pure _ | exact quiet_abort | exact quiet_assert _
    | exact quiet_emit _ _ (by assumption) | exact quiet_emit _ _ (by decide)
    | exact quiet_new_i32 | exact quiet_cflags | apply quiet_bind | apply quiet_ite
    | apply quiet_dite | intro _ | dsimp only [])
                  | decide | split)

theorem tcg_temp_free_i32_quiet (t : TCGv_i32) :
    Quiet (tcg_temp_free_i32 t) := by
  unfold tcg_temp_free_i32
  repeat' (first | with_reducible (first
    | exact quiet_pure _ | exact quiet_abort | exact quiet_assert _
    | exact quiet_emit _ _ (by assumption) | exact quiet_emit _ _ (by decide)
    | exact quiet_new_i32 | exact quiet_cflags | apply quiet_bind | apply quiet_ite
    | apply quiet_dite | intro _ | dsimp only [])
                  | decide | split)

theorem tcg_gen_mov_i32_quiet (ret arg : TCGv_i32) :
    Quiet (tcg_gen_mov_i32 ret arg) := by
  unfold tcg_gen_mov_i32
  repeat' (first | with_reducible (first
    | exact quiet_pure _ | exact quiet_abort | exact quiet_assert _
    | exact quiet_emit _ _ (by assumption) | exact quiet_emit _ _ (by decide)
    | exact quiet_new_i32 | exact quiet_cflags | apply tcg_gen_op2_quiet | apply quiet_bind
    | apply quiet_ite | apply quiet_dite | intro _ | dsimp only [])
                  | decide | split)

theorem tcg_gen_movi_i32_quiet (ret : TCGv_i32) (arg : Nat) :
    Quiet (tcg_gen_movi_i32 ret arg) := by
  unfold tcg_gen_movi_i32
  repeat' (first | with_reducible (first
    | exact quiet_pure _ | exact quiet_abort | exact quiet_assert _
    | exact quiet_emit _ _ (by assumption) | exact quiet_emit _ _ (by decide)
    | exact quiet_new_i32 | exact quiet_cflags | apply tcg_gen_op2_quiet | apply quiet_bind
    | apply quiet_ite | apply quiet_dite | intro _ | dsimp only [])
                  | decide | split)

theorem tcg_const_i32_quiet (val : Nat) :
    Quiet (tcg_const_i32 val) := by
  unfold tcg_const_i32
  repeat' (first | with_reducible (first
    | exact quiet_pure _ | exact quiet_abort | exact quiet_assert _
    | exact quiet_emit _ _ (by assumption) | exact quiet_emit _ _ (by decide)
    | exact quiet_new_i32 | exact quiet_cflags | apply tcg_gen_movi_i32_quiet | apply quiet_bind
    | apply quiet_ite | apply quiet_dite | intro _ | dsimp only [])
                  | decide | split)

theorem tcg_gen_add_i32_quiet (ret arg1 arg2 : TCGv_i32) :
    Quiet (tcg_gen_add_i32 ret arg1 arg2) := by
  unfold tcg_gen_add_i32
  repeat' (first | with_reducible (first
    | exact quiet_pure _ | exact quiet_abort | exact quiet_assert _
    | exact quiet_emit _ _ (by assumption) | exact quiet_emit _ _ (by decide)
    | exact quiet_new_i32 | exact quiet_cflags | apply tcg_gen_op3_quiet | apply quiet_bind
    | apply quiet_ite | apply quiet_dite | intro _ | dsimp only [])
                  | decide | split)

theorem tcg_gen_sub_i32_quiet (ret arg1 arg2 : TCGv_i32) :
    Quiet (tcg_gen_sub_i32 ret arg1 arg2) := by
  unfold tcg_gen_sub_i32
  repeat' (first | with_reducible (first
    | exact quiet_pure _ | exact quiet_abort | exact quiet_assert _
    | exact quiet_emit _ _ (by assumption) | exact quiet_emit _ _ (by decide)
    | exact quiet_new_i32 | exact quiet_cflags | apply tcg_gen_op3_quiet | apply quiet_bind
    | apply quiet_ite | apply quiet_dite | intro _ | dsimp only [])
                  | decide | split)

theorem tcg_gen_and_i32_quiet (ret arg1 arg2 : TCGv_i32) :
    Quiet (tcg_gen_and_i32 ret arg1 arg2) := by
  unfold tcg_gen_and_i32
  repeat' (first | with_reducible (first
    | exact quiet_pure _ | exact quiet_abort | exact quiet_assert _
    | exact quiet_emit _ _ (by assumption) | exact quiet_emit _ _ (by decide)
    | exact quiet_new_i32 | exact quiet_cflags | apply tcg_gen_op3_quiet | apply quiet_bind
    | apply quiet_ite | apply quiet_dite | intro _ | dsimp only [])
                  | decide | split)

theorem tcg_gen_or_i32_quiet (ret arg1 arg2 : TCGv_i32) :
    Quiet (tcg_gen_or_i32 ret arg1 arg2) := by
  unfold tcg_gen_or_i32
  repeat' (first | with_reducible (first
    | exact quiet_pure _ | exact quiet_abort | exact quiet_assert _
    | exact quiet_emit _ _ (by assumption) | exact quiet_emit _ _ (by decide)
    | exact quiet_new_i32 | exact quiet_cflags | apply tcg_gen_op3_quiet | apply quiet_bind
    | apply quiet_ite | apply quiet_dite | intro _ | dsimp only [])
                  | decide | split)

theorem tcg_gen_xor_i32_quiet (ret arg1 arg2 : TCGv_i32) :
    Quiet (tcg_gen_xor_i32 ret arg1 arg2) := by
  unfold tcg_gen_xor_i32
  repeat' (first | with_reducible (first
    | exact quiet_pure _ | exact quiet_abort | exact quiet_assert _
    | exact quiet_emit _ _ (by assumption) | exact quiet_emit _ _ (by decide)
    | exact quiet_new_i32 | exact quiet_cflags | apply tcg_gen_op3_quiet | apply quiet_bind
    | apply quiet_ite | apply quiet_dite | intro _ | dsimp only [])
                  | decide | split)

theorem tcg_gen_shl_i32_quiet (ret arg1 arg2 : TCGv_i32) :
    Quiet (tcg_gen_shl_i32 ret arg1 arg2) := by
  unfold tcg_gen_shl_i32
  repeat' (first | with_reducible (first
    | exact quiet_pure _ | exact quiet_abort | exact quiet_assert _
    | exact quiet_emit _ _ (by assumption) | exact quiet_emit _ _ (by decide)
    | exact quiet_new_i32 | exact quiet_cflags | apply tcg_gen_op3_quiet | apply quiet_bind
    | apply quiet_ite | apply quiet_dite | intro _ | dsimp only [])
                  | decide | split)

theorem tcg_gen_shr_i32_quiet (ret arg1 arg2 : TCGv_i32) :
    Quiet (tcg_gen_shr_i32 ret arg1 arg2) := by
  unfold tcg_gen_shr_i32
  repeat' (first | with_reducible (first
    | exact quiet_pure _ | exact quiet_abort | exact quiet_assert _
    | exact quiet_emit _ _ (by assumption) | exact quiet_emit _ _ (by decide)
    | exact quiet_new_i32 | exact quiet_cflags | apply tcg_gen_op3_quiet | apply quiet_bind
    | apply quiet_ite | apply quiet_dite | intro _ | dsimp only [])
                  | decide | split)

theorem tcg_gen_sar_i32_quiet (ret arg1 arg2 : TCGv_i32) :
    Quiet (tcg_gen_sar_i32 ret arg1 arg2) := by
  unfold tcg_gen_sar_i32
  repeat' (first | with_reducible (first
    | exact quiet_pure _ | exact quiet_abort | exact quiet_assert _
    | exact quiet_emit _ _ (by assumption) | exact quiet_emit _ _ (by decide)
    | exact quiet_new_i32 | exact quiet_cflags | apply tcg_gen_op3_quiet | apply quiet_bind
    | apply quiet_ite | apply quiet_dite | intro _ | dsimp only [])
                  | decide | split)

theorem tcg_gen_addi_i32_quiet (ret arg1 : TCGv_i32) (arg2 : Nat) :
    Quiet (tcg_gen_addi_i32 ret arg1 arg2) := by
  unfold tcg_gen_addi_i32
  repeat' (first | with_reducible (first
    | exact quiet_pure _ | exact quiet_abort | exact quiet_assert _
    | exact quiet_emit _ _ (by assumption) | exact quiet_emit _ _ (by decide)
    | exact quiet_new_i32 | exact quiet_cflags | apply tcg_temp_free_i32_quiet
    | apply tcg_gen_mov_i32_quiet | apply tcg_const_i32_quiet | apply tcg_gen_add_i32_quiet
    | apply quiet_bind | apply quiet_ite | apply quiet_dite | intro _ | dsimp only [])
                  | decide | split)

theorem tcg_gen_subfi_i32_quiet (T : TCGTarget) (ret : TCGv_i32) (arg1 : Nat) (arg2 : TCGv_i32) :
    Quiet (tcg_gen_subfi_i32 T ret arg1 arg2) := by
  unfold tcg_gen_subfi_i32
  repeat' (first | with_reducible (first
    | exact quiet_pure _ | exact quiet_abort | exact quiet_assert _
    | exact quiet_emit _ _ (by assumption) | exact quiet_emit _ _ (by decide)
    | exact quiet_new_i32 | exact quiet_cflags | apply tcg_gen_op2_quiet
    | apply tcg_temp_free_i32_quiet | apply tcg_const_i32_quiet | apply tcg_gen_sub_i32_quiet
    | apply quiet_bind | apply quiet_ite | apply quiet_dite | intro _ | dsimp only [])
                  | decide | split)

theorem tcg_gen_subi_i32_quiet (ret arg1 : TCGv_i32) (arg2 : Nat) :
    Quiet (tcg_gen_subi_i32 ret arg1 arg2) := by
  unfold tcg_gen_subi_i32
  repeat' (first | with_reducible (first
    | exact quiet_pure _ | exact quiet_abort | exact quiet_assert _
    | exact quiet_emit _ _ (by assumption) | exact quiet_emit _ _ (by decide)
    | exact quiet_new_i32 | exact quiet_cflags | apply tcg_temp_free_i32_quiet
    | apply tcg_gen_mov_i32_quiet | apply tcg_const_i32_quiet | apply tcg_gen_sub_i32_quiet
    | apply quiet_bind | apply quiet_ite | apply quiet_dite | intro _ | dsimp only [])
                  | decide | split)

theorem tcg_gen_andi_i32_quiet (T : TCGTarget) (ret arg1 : TCGv_i32) (arg2 : Nat) :
    Quiet (tcg_gen_andi_i32 T ret arg1 arg2) := by
  unfold tcg_gen_andi_i32
  repeat' (first | with_reducible (first
    | exact quiet_pure _ | exact quiet_abort | exact quiet_assert _
    | exact quiet_emit _ _ (by assumption) | exact quiet_emit _ _ (by decide)
    | exact quiet_new_i32 | exact quiet_cflags | apply tcg_gen_op2_quiet
    | apply tcg_temp_free_i32_quiet | apply tcg_gen_mov_i32_quiet | apply tcg_gen_movi_i32_quiet
    | apply tcg_const_i32_quiet | apply tcg_gen_and_i32_quiet | apply quiet_bind | apply quiet_ite
    | apply quiet_dite | intro _ | dsimp only [])
                  | decide | split)

theorem tcg_gen_xori_i32_quiet (T : TCGTarget) (ret arg1 : TCGv_i32) (arg2 : Nat) :
    Quiet (tcg_gen_xori_i32 T ret arg1 arg2) := by
  unfold tcg_gen_xori_i32
  repeat' (first | with_reducible (first
    | exact quiet_pure _ | exact quiet_abort | exact quiet_assert _
    | exact quiet_emit _ _ (by assumption) | exact quiet_emit _ _ (by decide)
    | exact quiet_new_i32 | exact quiet_cflags | apply tcg_gen_op2_quiet
    | apply tcg_temp_free_i32_quiet | apply tcg_gen_mov_i32_quiet | apply tcg_const_i32_quiet
    | apply tcg_gen_xor_i32_quiet | apply quiet_bind | apply quiet_ite | apply quiet_dite
    | intro _ | dsimp only [])
                  | decide | split)

theorem tcg_gen_neg_i32_quiet (T : TCGTarget) (ret arg : TCGv_i32) :
    Quiet (tcg_gen_neg_i32 T ret arg) := by
  unfold tcg_gen_neg_i32
  repeat' (first | with_reducible (first
    | exact quiet_pure _ | exact quiet_abort | exact quiet_assert _
    | exact quiet_emit _ _ (by assumption) | exact quiet_emit _ _ (by decide)
    | exact quiet_new_i32 | exact quiet_cflags | apply tcg_gen_op2_quiet
    | apply tcg_gen_subfi_i32_quiet | apply quiet_bind | apply quiet_ite | apply quiet_dite
    | intro _ | dsimp only [])
                  | decide | split)

theorem tcg_gen_not_i32_quiet (T : TCGTarget) (ret arg : TCGv_i32) :
    Quiet (tcg_gen_not_i32 T ret arg) := by
  unfold tcg_gen_not_i32
  repeat' (first | with_reducible (first
    | exact quiet_pure _ | exact quiet_abort | exact quiet_assert _
    | exact quiet_emit _ _ (by assumption) | exact quiet_emit _ _ (by decide)
    | exact quiet_new_i32 | exact quiet_cflags | apply tcg_gen_op2_quiet
    | apply tcg_gen_xori_i32_quiet | apply quiet_bind | apply quiet_ite | apply quiet_dite
    | intro _ | dsimp only [])
                  | decide | split)

theorem tcg_gen_shli_i32_quiet (ret arg1 : TCGv_i32) (arg2 : Nat) :
    Quiet (tcg_gen_shli_i32 ret arg1 arg2) := by
  unfold tcg_gen_shli_i32
  repeat' (first | with_reducible (first
    | exact quiet_pure _ | exact quiet_abort | exact quiet_assert _
    | exact quiet_emit _ _ (by assumption) | exact quiet_emit _ _ (by decide)
    | exact quiet_new_i32 | exact quiet_cflags | apply tcg_temp_free_i32_quiet
    | apply tcg_gen_mov_i32_quiet | apply tcg_const_i32_quiet | apply tcg_gen_shl_i32_quiet
    | apply quiet_bind | apply quiet_ite | apply quiet_dite | intro _ | dsimp only [])
                  | decide | split)

theorem tcg_gen_shri_i32_quiet (ret arg1 : TCGv_i32) (arg2 : Nat) :
    Quiet (tcg_gen_shri_i32 ret arg1 arg2) := by
  unfold tcg_gen_shri_i32
  repeat' (first | with_reducible (first
    | exact quiet_pure _ | exact quiet_abort | exact quiet_assert _
    | exact quiet_emit _ _ (by assumption) | exact quiet_emit _ _ (by decide)
    | exact quiet_new_i32 | exact quiet_cflags | apply tcg_temp_free_i32_quiet
    | apply tcg_gen_mov_i32_quiet | apply tcg_const_i32_quiet | apply tcg_gen_shr_i32_quiet
    | apply quiet_bind | apply quiet_ite | apply quiet_dite | intro _ | dsimp only [])
                  | decide | split)

theorem tcg_gen_sari_i32_quiet (ret arg1 : TCGv_i32) (arg2 : Nat) :
    Quiet (tcg_gen_sari_i32 ret arg1 arg2) := by
  unfold tcg_gen_sari_i32
  repeat' (first | with_reducible (first
    | exact quiet_pure _ | exact quiet_abort | exact quiet_assert _
    | exact quiet_emit _ _ (by assumption) | exact quiet_emit _ _ (by decide)
    | exact quiet_new_i32 | exact quiet_cflags | apply tcg_temp_free_i32_quiet
    | apply tcg_gen_mov_i32_quiet | apply tcg_const_i32_quiet | apply tcg_gen_sar_i32_quiet
    | apply quiet_bind | apply quiet_ite | apply quiet_dite | intro _ | dsimp only [])
                  | decide | split)

theorem tcg_gen_ext8s_i32_quiet (T : TCGTarget) (ret arg : TCGv_i32) :
    Quiet (tcg_gen_ext8s_i32 T ret arg) := by
  unfold tcg_gen_ext8s_i32
  repeat' (first | with_reducible (first
    | exact quiet_pure _ | exact quiet_abort | exact quiet_assert _
    | exact quiet_emit _ _ (by assumption) | exact quiet_emit _ _ (by decide)
    | exact quiet_new_i32 | exact quiet_cflags | apply tcg_gen_op2_quiet
    | apply tcg_gen_shli_i32_quiet | apply tcg_gen_sari_i32_quiet | apply quiet_bind
    | apply quiet_ite | apply quiet_dite | intro _ | dsimp only [])
                  | decide | split)

theorem tcg_gen_ext16s_i32_quiet (T : TCGTarget) (ret arg : TCGv_i32) :
    Quiet (tcg_gen_ext16s_i32 T ret arg) := by
  unfold tcg_gen_ext16s_i32
  repeat' (first | with_reducible (first
    | exact quiet_pure _ | exact quiet_abort | exact quiet_assert _
    | exact quiet_emit _ _ (by assumption) | exact quiet_emit _ _ (by decide)
    | exact quiet_new_i32 | exact quiet_cflags | apply tcg_gen_op2_quiet
    | apply tcg_gen_shli_i32_quiet | apply tcg_gen_sari_i32_quiet | apply quiet_bind
    | apply quiet_ite | apply quiet_dite | intro _ | dsimp only [])
                  | decide | split)

theorem tcg_gen_ext8u_i32_quiet (T : TCGTarget) (ret arg : TCGv_i32) :
    Quiet (tcg_gen_ext8u_i32 T ret arg) := by
  unfold tcg_gen_ext8u_i32
  repeat' (first | with_reducible (first
    | exact quiet_pure _ | exact quiet_abort | exact quiet_assert _
    | exact quiet_emit _ _ (by assumption) | exact quiet_emit _ _ (by decide)
    | exact quiet_new_i32 | exact quiet_cflags | apply tcg_gen_op2_quiet
    | apply tcg_gen_andi_i32_quiet | apply quiet_bind | apply quiet_ite | apply quiet_dite
    | intro _ | dsimp only [])
                  | decide | split)

theorem tcg_gen_ext16u_i32_quiet (T : TCGTarget) (ret arg : TCGv_i32) :
    Quiet (tcg_gen_ext16u_i32 T ret arg) := by
  unfold tcg_gen_ext16u_i32
  repeat' (first | with_reducible (first
    | exact quiet_pure _ | exact quiet_abort | exact quiet_assert _
    | exact quiet_emit _ _ (by assumption) | exact quiet_emit _ _ (by decide)
    | exact quiet_new_i32 | exact quiet_cflags | apply tcg_gen_op2_quiet
    | apply tcg_gen_andi_i32_quiet | apply quiet_bind | apply quiet_ite | apply quiet_dite
    | intro _ | dsimp only [])
                  | decide | split)

theorem tcg_gen_setcond_i32_quiet (cond : TCGCond) (ret arg1 arg2 : TCGv_i32) :
    Quiet (tcg_gen_setcond_i32 cond ret arg1 arg2) := by
  unfold tcg_gen_setcond_i32
  repeat' (first | with_reducible (first
    | exact quiet_pure _ | exact quiet_abort | exact quiet_assert _
    | exact quiet_emit _ _ (by assumption) | exact quiet_emit _ _ (by decide)
    | exact quiet_new_i32 | exact quiet_cflags | apply tcg_gen_op4_quiet
    | apply tcg_gen_movi_i32_quiet | apply quiet_bind | apply quiet_ite | apply quiet_dite
    | intro _ | dsimp only [])
                  | decide | split)

theorem tcg_gen_andc_i32_quiet (T : TCGTarget) (ret arg1 arg2 : TCGv_i32) :
    Quiet (tcg_gen_andc_i32 T ret arg1 arg2) := by
  unfold tcg_gen_andc_i32
  repeat' (first | with_reducible (first
    | exact quiet_pure _ | exact quiet_abort | exact quiet_assert _
    | exact quiet_emit _ _ (by assumption) | exact quiet_emit _ _ (by decide)
    | exact quiet_new_i32 | exact quiet_cflags | apply tcg_gen_op3_quiet
    | apply tcg_temp_free_i32_quiet | apply tcg_gen_and_i32_quiet | apply tcg_gen_not_i32_quiet
    | apply quiet_bind | apply quiet_ite | apply quiet_dite | intro _ | dsimp only [])
                  | decide | split)

theorem tcg_gen_rotl_i32_quiet (T : TCGTarget) (ret arg1 arg2 : TCGv_i32) :
    Quiet (tcg_gen_rotl_i32 T ret arg1 arg2) := by
  unfold tcg_gen_rotl_i32
  repeat' (first | with_reducible (first
    | exact quiet_pure _ | exact quiet_abort | exact quiet_assert _
    | exact quiet_emit _ _ (by assumption) | exact quiet_emit _ _ (by decide)
    | exact quiet_new_i32 | exact quiet_cflags | apply tcg_gen_op3_quiet
    | apply tcg_temp_free_i32_quiet | apply tcg_gen_or_i32_quiet | apply tcg_gen_shl_i32_quiet
    | apply tcg_gen_shr_i32_quiet | apply tcg_gen_subfi_i32_quiet | apply quiet_bind
    | apply quiet_ite | apply quiet_dite | intro _ | dsimp only [])
                  | decide | split)

theorem tcg_gen_rotli_i32_quiet (T : TCGTarget) (ret arg1 : TCGv_i32) (arg2 : Nat) :
    Quiet (tcg_gen_rotli_i32 T ret arg1 arg2) := by
  unfold tcg_gen_rotli_i32
  repeat' (first | with_reducible (first
    | exact quiet_pure _ | exact quiet_abort | exact quiet_assert _
    | exact quiet_emit _ _ (by assumption) | exact quiet_emit _ _ (by decide)
    | exact quiet_new_i32 | exact quiet_cflags | apply tcg_temp_free_i32_quiet
    | apply tcg_gen_mov_i32_quiet | apply tcg_const_i32_quiet | apply tcg_gen_or_i32_quiet
    | apply tcg_gen_shli_i32_quiet | apply tcg_gen_shri_i32_quiet | apply tcg_gen_rotl_i32_quiet
    | apply quiet_bind | apply quiet_ite | apply quiet_dite | intro _ | dsimp only [])
                  | decide | split)

theorem tcg_gen_rotr_i32_quiet (T : TCGTarget) (ret arg1 arg2 : TCGv_i32) :
    Quiet (tcg_gen_rotr_i32 T ret arg1 arg2) := by
  unfold tcg_gen_rotr_i32
  repeat' (first | with_reducible (first
    | exact quiet_pure _ | exact quiet_abort | exact quiet_assert _
    | exact quiet_emit _ _ (by assumption) | exact quiet_emit _ _ (by decide)
    | exact quiet_new_i32 | exact quiet_cflags | apply tcg_gen_op3_quiet
    | apply tcg_temp_free_i32_quiet | apply tcg_gen_or_i32_quiet | apply tcg_gen_shl_i32_quiet
    | apply tcg_gen_shr_i32_quiet | apply tcg_gen_subfi_i32_quiet | apply quiet_bind
    | apply quiet_ite | apply quiet_dite | intro _ | dsimp only [])
                  | decide | split)

theorem tcg_gen_rotri_i32_quiet (T : TCGTarget) (ret arg1 : TCGv_i32) (arg2 : Nat) :
    Quiet (tcg_gen_rotri_i32 T ret arg1 arg2) := by
  unfold tcg_gen_rotri_i32
  repeat' (first | with_reducible (first
    | exact quiet_pure _ | exact quiet_abort | exact quiet_assert _
    | exact quiet_emit _ _ (by assumption) | exact quiet_emit _ _ (by decide)
    | exact quiet_new_i32 | exact quiet_cflags | apply tcg_gen_mov_i32_quiet
    | apply tcg_gen_rotli_i32_quiet | apply quiet_bind | apply quiet_ite | apply quiet_dite
    | intro _ | dsimp only [])
                  | decide | split)

theorem tcg_gen_extract2_i32_native_quiet (T : TCGTarget) (ret al ah : Nat) (ofs : Nat)
    (h : T.TCG_TARGET_HAS_extract2_i32 = true) :
    Quiet (tcg_gen_extract2_i32 T ret al ah ofs) := by
  unfold tcg_gen_extract2_i32
  simp only [h, if_true]
  repeat' (first | with_reducible (first
    | exact absurd trivial (by assumption) | exact quiet_assert _ | apply tcg_gen_mov_i32_quiet
    | apply tcg_gen_rotri_i32_quiet | apply tcg_gen_op4_quiet | apply quiet_bind | apply quiet_ite
    | apply quiet_dite | intro _) | decide)

theorem tcg_gen_deposit_i32_quiet (T : TCGTarget) (ret arg1 arg2 : TCGv_i32) (ofs len : Nat) :
    Quiet (tcg_gen_deposit_i32 T ret arg1 arg2 ofs len) := by
  unfold tcg_gen_deposit_i32
  repeat' (first | with_reducible (first
    | exact tcg_gen_extract2_i32_native_quiet T _ _ _ _ (And.left (by assumption))
    | exact quiet_pure _ | exact quiet_abort | exact quiet_assert _
    | exact quiet_emit _ _ (by assumption) | exact quiet_emit _ _ (by decide)
    | exact quiet_new_i32 | exact quiet_cflags | apply tcg_gen_op5_quiet
    | apply tcg_temp_free_i32_quiet | apply tcg_gen_mov_i32_quiet | apply tcg_gen_or_i32_quiet
    | apply tcg_gen_andi_i32_quiet | apply tcg_gen_shli_i32_quiet | apply tcg_gen_rotli_i32_quiet
    | apply tcg_gen_extract2_i32_quiet | apply quiet_bind | apply quiet_ite | apply quiet_dite
    | intro _ | dsimp only [])
                  | decide | split)

theorem tcg_gen_extract2_i32_quiet (T : TCGTarget) (ret al ah : TCGv_i32) (ofs : Nat) :
    Quiet (tcg_gen_extract2_i32 T ret al ah ofs) := by
  unfold tcg_gen_extract2_i32
  repeat' (first | with_reducible (first
    | exact quiet_pure _ | exact quiet_abort | exact quiet_assert _
    | exact quiet_emit _ _ (by assumption) | exact quiet_emit _ _ (by decide)
    | exact quiet_new_i32 | exact quiet_cflags | apply tcg_gen_op4_quiet
    | apply tcg_temp_free_i32_quiet | apply tcg_gen_mov_i32_quiet | apply tcg_gen_shri_i32_quiet
    | apply tcg_gen_rotri_i32_quiet | apply tcg_gen_deposit_i32_quiet | apply quiet_bind
    | apply quiet_ite | apply quiet_dite | intro _ | dsimp only [])
                  | decide | split)

theorem tcg_gen_extract_i32_quiet (T : TCGTarget) (ret arg : TCGv_i32) (ofs len : Nat) :
    Quiet (tcg_gen_extract_i32 T ret arg ofs len) := by
  unfold tcg_gen_extract_i32
  repeat' (first | with_reducible (first
    | exact quiet_pure _ | exact quiet_abort | exact quiet_assert _
    | exact quiet_emit _ _ (by assumption) | exact quiet_emit _ _ (by decide)
    | exact quiet_new_i32 | exact quiet_cflags | apply tcg_gen_op4_quiet
    | apply tcg_gen_andi_i32_quiet | apply tcg_gen_shli_i32_quiet | apply tcg_gen_shri_i32_quiet
    | apply tcg_gen_ext8u_i32_quiet | apply tcg_gen_ext16u_i32_quiet | apply quiet_bind
    | apply quiet_ite | apply quiet_dite | intro _ | dsimp only [])
                  | decide | split)

theorem tcg_gen_sextract_i32_quiet (T : TCGTarget) (ret arg : TCGv_i32) (ofs len : Nat) :
    Quiet (tcg_gen_sextract_i32 T ret arg ofs len) := by
  unfold tcg_gen_sextract_i32
  repeat' (first | with_reducible (first
    | exact quiet_pure _ | exact quiet_abort | exact quiet_assert _
    | exact quiet_emit _ _ (by assumption) | exact quiet_emit _ _ (by decide)
    | exact quiet_new_i32 | exact quiet_cflags | apply tcg_gen_op4_quiet
    | apply tcg_gen_shli_i32_quiet | apply tcg_gen_shri_i32_quiet | apply tcg_gen_sari_i32_quiet
    | apply tcg_gen_ext8s_i32_quiet | apply tcg_gen_ext16s_i32_quiet | apply quiet_bind
    | apply quiet_ite | apply quiet_dite | intro _ | dsimp only [])
                  | decide | split)

theorem tcg_gen_movcond_i32_quiet (T : TCGTarget) (cond : TCGCond) (ret c1 c2 v1 v2 : TCGv_i32) :
    Quiet (tcg_gen_movcond_i32 T cond ret c1 c2 v1 v2) := by
  unfold tcg_gen_movcond_i32
  repeat' (first | with_reducible (first
    | exact quiet_pure _ | exact quiet_abort | exact quiet_assert _
    | exact quiet_emit _ _ (by assumption) | exact quiet_emit _ _ (by decide)
    | exact quiet_new_i32 | exact quiet_cflags | apply tcg_gen_op6_quiet
    | apply tcg_temp_free_i32_quiet | apply tcg_gen_mov_i32_quiet | apply tcg_gen_and_i32_quiet
    | apply tcg_gen_or_i32_quiet | apply tcg_gen_neg_i32_quiet | apply tcg_gen_setcond_i32_quiet
    | apply tcg_gen_andc_i32_quiet | apply quiet_bind | apply quiet_ite | apply quiet_dite
    | intro _ | dsimp only [])
                  | decide | split)

theorem tcg_gen_bswap16_i32_quiet (T : TCGTarget) (ret arg : TCGv_i32) :
    Quiet (tcg_gen_bswap16_i32 T ret arg) := by
  unfold tcg_gen_bswap16_i32
  repeat' (first | with_reducible (first
    | exact quiet_pure _ | exact quiet_abort | exact quiet_assert _
    | exact quiet_emit _ _ (by assumption) | exact quiet_emit _ _ (by decide)
    | exact quiet_new_i32 | exact quiet_cflags | apply tcg_gen_op2_quiet
    | apply tcg_temp_free_i32_quiet | apply tcg_gen_or_i32_quiet | apply tcg_gen_shli_i32_quiet
    | apply tcg_gen_shri_i32_quiet | apply tcg_gen_ext8u_i32_quiet | apply quiet_bind
    | apply quiet_ite | apply quiet_dite | intro _ | dsimp only [])
                  | decide | split)

theorem tcg_gen_bswap32_i32_quiet (T : TCGTarget) (ret arg : TCGv_i32) :
    Quiet (tcg_gen_bswap32_i32 T ret arg) := by
  unfold tcg_gen_bswap32_i32
  repeat' (first | with_reducible (first
    | exact quiet_pure _ | exact quiet_abort | exact quiet_assert _
    | exact quiet_emit _ _ (by assumption) | exact quiet_emit _ _ (by decide)
    | exact quiet_new_i32 | exact quiet_cflags | apply tcg_gen_op2_quiet
    | apply tcg_temp_free_i32_quiet | apply tcg_const_i32_quiet | apply tcg_gen_and_i32_quiet
    | apply tcg_gen_or_i32_quiet | apply tcg_gen_shli_i32_quiet | apply tcg_gen_shri_i32_quiet
    | apply quiet_bind | apply quiet_ite | apply quiet_dite | intro _ | dsimp only [])
                  | decide | split)

theorem tcg_gen_callN_quiet (h : Helper) (args : List TCGArg) :
    Quiet (tcg_gen_callN h args) := by
  unfold tcg_gen_callN
  repeat' (first | with_reducible (first
    | exact quiet_pure _ | exact quiet_abort | exact quiet_assert _
    | exact quiet_emit _ _ (by assumption) | exact quiet_emit _ _ (by decide)
    | exact quiet_new_i32 | exact quiet_cflags | apply quiet_bind | apply quiet_ite
    | apply quiet_dite | intro _ | dsimp only [])
                  | decide | split)

theorem gen_helper_clz_i32_quiet (ret arg1 arg2 : TCGv_i32) :
    Quiet (gen_helper_clz_i32 ret arg1 arg2) := by
  unfold gen_helper_clz_i32
  repeat' (first | with_reducible (first
    | exact quiet_pure _ | exact quiet_abort | exact quiet_assert _
    | exact quiet_emit _ _ (by assumption) | exact quiet_emit _ _ (by decide)
    | exact quiet_new_i32 | exact quiet_cflags | apply tcg_gen_callN_quiet | apply quiet_bind
    | apply quiet_ite | apply quiet_dite | intro _ | dsimp only [])
                  | decide | split)

theorem gen_helper_i64_quiet (T : TCGTarget) (h : Helper) (ret arg1 arg2 : TCGv_i64) :
    Quiet (gen_helper_i64 T h ret arg1 arg2) := by
  unfold gen_helper_i64
  repeat' (first | with_reducible (first
    | exact quiet_pure _ | exact quiet_abort | exact quiet_assert _
    | exact quiet_emit _ _ (by assumption) | exact quiet_emit _ _ (by decide)
    | exact quiet_new_i32 | exact quiet_cflags | apply tcg_gen_callN_quiet | apply quiet_bind
    | apply quiet_ite | apply quiet_dite | intro _ | dsimp only [])
                  | decide | split)

theorem tcg_temp_new_i64_quiet (T : TCGTarget) :
    Quiet (tcg_temp_new_i64 T) :=
  fun _ => rfl

theorem tcg_temp_free_i64_quiet (t : TCGv_i64) :
    Quiet (tcg_temp_free_i64 t) := by
  unfold tcg_temp_free_i64
  repeat' (first | with_reducible (first
    | exact quiet_pure _ | exact quiet_abort | exact quiet_assert _
    | exact quiet_emit _ _ (by assumption) | exact quiet_emit _ _ (by decide)
    | exact quiet_new_i32 | exact quiet_cflags | apply quiet_bind | apply quiet_ite
    | apply quiet_dite | intro _ | dsimp only [])
                  | decide | split)

theorem tcg_gen_mov_i64_quiet (T : TCGTarget) (ret arg : TCGv_i64) :
    Quiet (tcg_gen_mov_i64 T ret arg) := by
  unfold tcg_gen_mov_i64
  repeat' (first | with_reducible (first
    | exact quiet_pure _ | exact quiet_abort | exact quiet_assert _
    | exact quiet_emit _ _ (by assumption) | exact quiet_emit _ _ (by decide)
    | exact quiet_new_i32 | exact quiet_cflags | apply tcg_gen_op2_quiet
    | apply tcg_gen_mov_i32_quiet | apply quiet_bind | apply quiet_ite | apply quiet_dite
    | intro _ | dsimp only [])
                  | decide | split)

theorem tcg_gen_movi_i64_quiet (T : TCGTarget) (ret : TCGv_i64) (arg : Nat) :
    Quiet (tcg_gen_movi_i64 T ret arg) := by
  unfold tcg_gen_movi_i64
  repeat' (first | with_reducible (first
    | exact quiet_pure _ | exact quiet_abort | exact quiet_assert _
    | exact quiet_emit _ _ (by assumption) | exact quiet_emit _ _ (by decide)
    | exact quiet_new_i32 | exact quiet_cflags | apply tcg_gen_op2_quiet
    | apply tcg_gen_movi_i32_quiet | apply quiet_bind | apply quiet_ite | apply quiet_dite
    | intro _ | dsimp only [])
                  | decide | split)

theorem tcg_const_i64_quiet (T : TCGTarget) (val : Nat) :
    Quiet (tcg_const_i64 T val) := by
  unfold tcg_const_i64
  repeat' (first | with_reducible (first
    | exact quiet_pure _ | exact quiet_abort | exact quiet_assert _
    | exact quiet_emit _ _ (by assumption) | exact quiet_emit _ _ (by decide)
    | exact quiet_new_i32 | exact quiet_cflags | apply tcg_temp_new_i64_quiet
    | apply tcg_gen_movi_i64_quiet | apply quiet_bind | apply quiet_ite | apply quiet_dite
    | intro _ | dsimp only [])
                  | decide | split)

theorem tcg_gen_and_i64_quiet (T : TCGTarget) (ret arg1 arg2 : TCGv_i64) :
    Quiet (tcg_gen_and_i64 T ret arg1 arg2) := by
  unfold tcg_gen_and_i64
  repeat' (first | with_reducible (first
    | exact quiet_pure _ | exact quiet_abort | exact quiet_assert _
    | exact quiet_emit _ _ (by assumption) | exact quiet_emit _ _ (by decide)
    | exact quiet_new_i32 | exact quiet_cflags | apply tcg_gen_op3_quiet
    | apply tcg_gen_and_i32_quiet | apply quiet_bind | apply quiet_ite | apply quiet_dite
    | intro _ | dsimp only [])
                  | decide | split)

theorem tcg_gen_or_i64_quiet (T : TCGTarget) (ret arg1 arg2 : TCGv_i64) :
    Quiet (tcg_gen_or_i64 T ret arg1 arg2) := by
  unfold tcg_gen_or_i64
  repeat' (first | with_reducible (first
    | exact quiet_pure _ | exact quiet_abort | exact quiet_assert _
    | exact quiet_emit _ _ (by assumption) | exact quiet_emit _ _ (by decide)
    | exact quiet_new_i32 | exact quiet_cflags | apply tcg_gen_op3_quiet
    | apply tcg_gen_or_i32_quiet | apply quiet_bind | apply quiet_ite | apply quiet_dite | intro _
    | dsimp only [])
                  | decide | split)

theorem tcg_gen_xor_i64_quiet (T : TCGTarget) (ret arg1 arg2 : TCGv_i64) :
    Quiet (tcg_gen_xor_i64 T ret arg1 arg2) := by
  unfold tcg_gen_xor_i64
  repeat' (first | with_reducible (first
    | exact quiet_pure _ | exact quiet_abort | exact quiet_assert _
    | exact quiet_emit _ _ (by assumption) | exact quiet_emit _ _ (by decide)
    | exact quiet_new_i32 | exact quiet_cflags | apply tcg_gen_op3_quiet
    | apply tcg_gen_xor_i32_quiet | apply quiet_bind | apply quiet_ite | apply quiet_dite
    | intro _ | dsimp only [])
                  | decide | split)

theorem tcg_gen_add_i64_quiet (T : TCGTarget) (ret arg1 arg2 : TCGv_i64) :
    Quiet (tcg_gen_add_i64 T ret arg1 arg2) := by
  unfold tcg_gen_add_i64
  repeat' (first | with_reducible (first
    | exact quiet_pure _ | exact quiet_abort | exact quiet_assert _
    | exact quiet_emit _ _ (by assumption) | exact quiet_emit _ _ (by decide)
    | exact quiet_new_i32 | exact quiet_cflags | apply tcg_gen_op3_quiet | apply tcg_gen_op6_quiet
    | apply quiet_bind | apply quiet_ite | apply quiet_dite | intro _ | dsimp only [])
                  | decide | split)

theorem tcg_gen_sub_i64_quiet (T : TCGTarget) (ret arg1 arg2 : TCGv_i64) :
    Quiet (tcg_gen_sub_i64 T ret arg1 arg2) := by
  unfold tcg_gen_sub_i64
  repeat' (first | with_reducible (first
    | exact quiet_pure _ | exact quiet_abort | exact quiet_assert _
    | exact quiet_emit _ _ (by assumption) | exact quiet_emit _ _ (by decide)
    | exact quiet_new_i32 | exact quiet_cflags | apply tcg_gen_op3_quiet | apply tcg_gen_op6_quiet
    | apply quiet_bind | apply quiet_ite | apply quiet_dite | intro _ | dsimp only [])
                  | decide | split)

theorem tcg_gen_shl_i64_quiet (T : TCGTarget) (ret arg1 arg2 : TCGv_i64) :
    Quiet (tcg_gen_shl_i64 T ret arg1 arg2) := by
  unfold tcg_gen_shl_i64
  repeat' (first | with_reducible (first
    | exact quiet_pure _ | exact quiet_abort | exact quiet_assert _
    | exact quiet_emit _ _ (by assumption) | exact quiet_emit _ _ (by decide)
    | exact quiet_new_i32 | exact quiet_cflags | apply tcg_gen_op3_quiet
    | apply gen_helper_i64_quiet | apply quiet_bind | apply quiet_ite | apply quiet_dite | intro _
    | dsimp only [])
                  | decide | split)

theorem tcg_gen_shr_i64_quiet (T : TCGTarget) (ret arg1 arg2 : TCGv_i64) :
    Quiet (tcg_gen_shr_i64 T ret arg1 arg2) := by
  unfold tcg_gen_shr_i64
  repeat' (first | with_reducible (first
    | exact quiet_pure _ | exact quiet_abort | exact quiet_assert _
    | exact quiet_emit _ _ (by assumption) | exact quiet_emit _ _ (by decide)
    | exact quiet_new_i32 | exact quiet_cflags | apply tcg_gen_op3_quiet
    | apply gen_helper_i64_quiet | apply quiet_bind | apply quiet_ite | apply quiet_dite | intro _
    | dsimp only [])
                  | decide | split)

theorem tcg_gen_sar_i64_quiet (T : TCGTarget) (ret arg1 arg2 : TCGv_i64) :
    Quiet (tcg_gen_sar_i64 T ret arg1 arg2) := by
  unfold tcg_gen_sar_i64
  repeat' (first | with_reducible (first
    | exact quiet_pure _ | exact quiet_abort | exact quiet_assert _
    | exact quiet_emit _ _ (by assumption) | exact quiet_emit _ _ (by decide)
    | exact quiet_new_i32 | exact quiet_cflags | apply tcg_gen_op3_quiet
    | apply gen_helper_i64_quiet | apply quiet_bind | apply quiet_ite | apply quiet_dite | intro _
    | dsimp only [])
                  | decide | split)

theorem tcg_gen_addi_i64_quiet (T : TCGTarget) (ret arg1 : TCGv_i64) (arg2 : Nat) :
    Quiet (tcg_gen_addi_i64 T ret arg1 arg2) := by
  unfold tcg_gen_addi_i64
  repeat' (first | with_reducible (first
    | exact quiet_pure _ | exact quiet_abort | exact quiet_assert _
    | exact quiet_emit _ _ (by assumption) | exact quiet_emit _ _ (by decide)
    | exact quiet_new_i32 | exact quiet_cflags | apply tcg_temp_free_i64_quiet
    | apply tcg_gen_mov_i64_quiet | apply tcg_const_i64_quiet | apply tcg_gen_add_i64_quiet
    | apply quiet_bind | apply quiet_ite | apply quiet_dite | intro _ | dsimp only [])
                  | decide | split)

theorem tcg_gen_subfi_i64_quiet (T : TCGTarget) (ret : TCGv_i64) (arg1 : Nat) (arg2 : TCGv_i64) :
    Quiet (tcg_gen_subfi_i64 T ret arg1 arg2) := by
  unfold tcg_gen_subfi_i64
  repeat' (first | with_reducible (first
    | exact quiet_pure _ | exact quiet_abort | exact quiet_assert _
    | exact quiet_emit _ _ (by assumption) | exact quiet_emit _ _ (by decide)
    | exact quiet_new_i32 | exact quiet_cflags | apply tcg_gen_op2_quiet
    | apply tcg_temp_free_i64_quiet | apply tcg_const_i64_quiet | apply tcg_gen_sub_i64_quiet
    | apply quiet_bind | apply quiet_ite | apply quiet_dite | intro _ | dsimp only [])
                  | decide | split)

theorem tcg_gen_subi_i64_quiet (T : TCGTarget) (ret arg1 : TCGv_i64) (arg2 : Nat) :
    Quiet (tcg_gen_subi_i64 T ret arg1 arg2) := by
  unfold tcg_gen_subi_i64
  repeat' (first | with_reducible (first
    | exact quiet_pure _ | exact quiet_abort | exact quiet_assert _
    | exact quiet_emit _ _ (by assumption) | exact quiet_emit _ _ (by decide)
    | exact quiet_new_i32 | exact quiet_cflags | apply tcg_temp_free_i64_quiet
    | apply tcg_gen_mov_i64_quiet | apply tcg_const_i64_quiet | apply tcg_gen_sub_i64_quiet
    | apply quiet_bind | apply quiet_ite | apply quiet_dite | intro _ | dsimp only [])
                  | decide | split)

theorem tcg_gen_andi_i64_quiet (T : TCGTarget) (ret arg1 : TCGv_i64) (arg2 : Nat) :
    Quiet (tcg_gen_andi_i64 T ret arg1 arg2) := by
  unfold tcg_gen_andi_i64
  repeat' (first | with_reducible (first
    | exact quiet_pure _ | exact quiet_abort | exact quiet_assert _
    | exact quiet_emit _ _ (by assumption) | exact quiet_emit _ _ (by decide)
    | exact quiet_new_i32 | exact quiet_cflags | apply tcg_gen_op2_quiet
    | apply tcg_gen_andi_i32_quiet | apply tcg_temp_free_i64_quiet | apply tcg_gen_mov_i64_quiet
    | apply tcg_gen_movi_i64_quiet | apply tcg_const_i64_quiet | apply tcg_gen_and_i64_quiet
    | apply quiet_bind | apply quiet_ite | apply quiet_dite | intro _ | dsimp only [])
                  | decide | split)

theorem tcg_gen_xori_i64_quiet (T : TCGTarget) (ret arg1 : TCGv_i64) (arg2 : Nat) :
    Quiet (tcg_gen_xori_i64 T ret arg1 arg2) := by
  unfold tcg_gen_xori_i64
  repeat' (first | with_reducible (first
    | exact quiet_pure _ | exact quiet_abort | exact quiet_assert _
    | exact quiet_emit _ _ (by assumption) | exact quiet_emit _ _ (by decide)
    | exact quiet_new_i32 | exact quiet_cflags | apply tcg_gen_op2_quiet
    | apply tcg_gen_xori_i32_quiet | apply tcg_temp_free_i64_quiet | apply tcg_gen_mov_i64_quiet
    | apply tcg_const_i64_quiet | apply tcg_gen_xor_i64_quiet | apply quiet_bind | apply quiet_ite
    | apply quiet_dite | intro _ | dsimp only [])
                  | decide | split)

theorem tcg_gen_shifti_i64_quiet (T : TCGTarget) (ret arg1 : TCGv_i64) (c : Nat) (right arith : Bool) :
    Quiet (tcg_gen_shifti_i64 T ret arg1 c right arith) := by
  unfold tcg_gen_shifti_i64
  repeat' (first | with_reducible (first
    | exact quiet_pure _ | exact quiet_abort | exact quiet_assert _
    | exact quiet_emit _ _ (by assumption) | exact quiet_emit _ _ (by decide)
    | exact quiet_new_i32 | exact quiet_cflags | apply tcg_temp_free_i32_quiet
    | apply tcg_gen_mov_i32_quiet | apply tcg_gen_movi_i32_quiet | apply tcg_gen_shli_i32_quiet
    | apply tcg_gen_shri_i32_quiet | apply tcg_gen_sari_i32_quiet
    | apply tcg_gen_deposit_i32_quiet | apply tcg_gen_extract2_i32_quiet | apply quiet_bind
    | apply quiet_ite | apply quiet_dite | intro _ | dsimp only [])
                  | decide | split)

theorem tcg_gen_shli_i64_quiet (T : TCGTarget) (ret arg1 : TCGv_i64) (arg2 : Nat) :
    Quiet (tcg_gen_shli_i64 T ret arg1 arg2) := by
  unfold tcg_gen_shli_i64
  repeat' (first | with_reducible (first
    | exact quiet_pure _ | exact quiet_abort | exact quiet_assert _
    | exact quiet_emit _ _ (by assumption) | exact quiet_emit _ _ (by decide)
    | exact quiet_new_i32 | exact quiet_cflags | apply tcg_temp_free_i64_quiet
    | apply tcg_gen_mov_i64_quiet | apply tcg_const_i64_quiet | apply tcg_gen_shl_i64_quiet
    | apply tcg_gen_shifti_i64_quiet | apply quiet_bind | apply quiet_ite | apply quiet_dite
    | intro _ | dsimp only [])
                  | decide | split)

theorem tcg_gen_shri_i64_quiet (T : TCGTarget) (ret arg1 : TCGv_i64) (arg2 : Nat) :
    Quiet (tcg_gen_shri_i64 T ret arg1 arg2) := by
  unfold tcg_gen_shri_i64
  repeat' (first | with_reducible (first
    | exact quiet_pure _ | exact quiet_abort | exact quiet_assert _
    | exact quiet_emit _ _ (by assumption) | exact quiet_emit _ _ (by decide)
    | exact quiet_new_i32 | exact quiet_cflags | apply tcg_temp_free_i64_quiet
    | apply tcg_gen_mov_i64_quiet | apply tcg_const_i64_quiet | apply tcg_gen_shr_i64_quiet
    | apply tcg_gen_shifti_i64_quiet | apply quiet_bind | apply quiet_ite | apply quiet_dite
    | intro _ | dsimp only [])
                  | decide | split)

theorem tcg_gen_sari_i64_quiet (T : TCGTarget) (ret arg1 : TCGv_i64) (arg2 : Nat) :
    Quiet (tcg_gen_sari_i64 T ret arg1 arg2) := by
  unfold tcg_gen_sari_i64
  repeat' (first | with_reducible (first
    | exact quiet_pure _ | exact quiet_abort | exact quiet_assert _
    | exact quiet_emit _ _ (by assumption) | exact quiet_emit _ _ (by decide)
    | exact quiet_new_i32 | exact quiet_cflags | apply tcg_temp_free_i64_quiet
    | apply tcg_gen_mov_i64_quiet | apply tcg_const_i64_quiet | apply tcg_gen_sar_i64_quiet
    | apply tcg_gen_shifti_i64_quiet | apply quiet_bind | apply quiet_ite | apply quiet_dite
    | intro _ | dsimp only [])
                  | decide | split)

theorem tcg_gen_setcond_i64_quiet (T : TCGTarget) (cond : TCGCond) (ret arg1 arg2 : TCGv_i64) :
    Quiet (tcg_gen_setcond_i64 T cond ret arg1 arg2) := by
  unfold tcg_gen_setcond_i64
  repeat' (first | with_reducible (first
    | exact quiet_pure _ | exact quiet_abort | exact quiet_assert _
    | exact quiet_emit _ _ (by assumption) | exact quiet_emit _ _ (by decide)
    | exact quiet_new_i32 | exact quiet_cflags | apply tcg_gen_op4_quiet | apply tcg_gen_op6_quiet
    | apply tcg_gen_movi_i32_quiet | apply tcg_gen_movi_i64_quiet | apply quiet_bind
    | apply quiet_ite | apply quiet_dite | intro _ | dsimp only [])
                  | decide | split)

theorem tcg_gen_ext8s_i64_quiet (T : TCGTarget) (ret arg : TCGv_i64) :
    Quiet (tcg_gen_ext8s_i64 T ret arg) := by
  unfold tcg_gen_ext8s_i64
  repeat' (first | with_reducible (first
    | exact quiet_pure _ | exact quiet_abort | exact quiet_assert _
    | exact quiet_emit _ _ (by assumption) | exact quiet_emit _ _ (by decide)
    | exact quiet_new_i32 | exact quiet_cflags | apply tcg_gen_op2_quiet
    | apply tcg_gen_sari_i32_quiet | apply tcg_gen_ext8s_i32_quiet | apply tcg_gen_shli_i64_quiet
    | apply tcg_gen_sari_i64_quiet | apply quiet_bind | apply quiet_ite | apply quiet_dite
    | intro _ | dsimp only [])
                  | decide | split)

theorem tcg_gen_ext16s_i64_quiet (T : TCGTarget) (ret arg : TCGv_i64) :
    Quiet (tcg_gen_ext16s_i64 T ret arg) := by
  unfold tcg_gen_ext16s_i64
  repeat' (first | with_reducible (first
    | exact quiet_pure _ | exact quiet_abort | exact quiet_assert _
    | exact quiet_emit _ _ (by assumption) | exact quiet_emit _ _ (by decide)
    | exact quiet_new_i32 | exact quiet_cflags | apply tcg_gen_op2_quiet
    | apply tcg_gen_sari_i32_quiet | apply tcg_gen_ext16s_i32_quiet | apply tcg_gen_shli_i64_quiet
    | apply tcg_gen_sari_i64_quiet | apply quiet_bind | apply quiet_ite | apply quiet_dite
    | intro _ | dsimp only [])
                  | decide | split)

theorem tcg_gen_ext32s_i64_quiet (T : TCGTarget) (ret arg : TCGv_i64) :
    Quiet (tcg_gen_ext32s_i64 T ret arg) := by
  unfold tcg_gen_ext32s_i64
  repeat' (first | with_reducible (first
    | exact quiet_pure _ | exact quiet_abort | exact quiet_assert _
    | exact quiet_emit _ _ (by assumption) | exact quiet_emit _ _ (by decide)
    | exact quiet_new_i32 | exact quiet_cflags | apply tcg_gen_op2_quiet
    | apply tcg_gen_mov_i32_quiet | apply tcg_gen_sari_i32_quiet | apply tcg_gen_shli_i64_quiet
    | apply tcg_gen_sari_i64_quiet | apply quiet_bind | apply quiet_ite | apply quiet_dite
    | intro _ | dsimp only [])
                  | decide | split)

theorem tcg_gen_ext8u_i64_quiet (T : TCGTarget) (ret arg : TCGv_i64) :
    Quiet (tcg_gen_ext8u_i64 T ret arg) := by
  unfold tcg_gen_ext8u_i64
  repeat' (first | with_reducible (first
    | exact quiet_pure _ | exact quiet_abort | exact quiet_assert _
    | exact quiet_emit _ _ (by assumption) | exact quiet_emit _ _ (by decide)
    | exact quiet_new_i32 | exact quiet_cflags | apply tcg_gen_op2_quiet
    | apply tcg_gen_movi_i32_quiet | apply tcg_gen_ext8u_i32_quiet | apply tcg_gen_andi_i64_quiet
    | apply quiet_bind | apply quiet_ite | apply quiet_dite | intro _ | dsimp only [])
                  | decide | split)

theorem tcg_gen_ext16u_i64_quiet (T : TCGTarget) (ret arg : TCGv_i64) :
    Quiet (tcg_gen_ext16u_i64 T ret arg) := by
  unfold tcg_gen_ext16u_i64
  repeat' (first | with_reducible (first
    | exact quiet_pure _ | exact quiet_abort | exact quiet_assert _
    | exact quiet_emit _ _ (by assumption) | exact quiet_emit _ _ (by decide)
    | exact quiet_new_i32 | exact quiet_cflags | apply tcg_gen_op2_quiet
    | apply tcg_gen_movi_i32_quiet | apply tcg_gen_ext16u_i32_quiet | apply tcg_gen_andi_i64_quiet
    | apply quiet_bind | apply quiet_ite | apply quiet_dite | intro _ | dsimp only [])
                  | decide | split)

theorem tcg_gen_ext32u_i64_quiet (T : TCGTarget) (ret arg : TCGv_i64) :
    Quiet (tcg_gen_ext32u_i64 T ret arg) := by
  unfold tcg_gen_ext32u_i64
  repeat' (first | with_reducible (first
    | exact quiet_pure _ | exact quiet_abort | exact quiet_assert _
    | exact quiet_emit _ _ (by assumption) | exact quiet_emit _ _ (by decide)
    | exact quiet_new_i32 | exact quiet_cflags | apply tcg_gen_op2_quiet
    | apply tcg_gen_mov_i32_quiet | apply tcg_gen_movi_i32_quiet | apply tcg_gen_andi_i64_quiet
    | apply quiet_bind | apply quiet_ite | apply quiet_dite | intro _ | dsimp only [])
                  | decide | split)

theorem tcg_gen_bswap16_i64_quiet (T : TCGTarget) (ret arg : TCGv_i64) :
    Quiet (tcg_gen_bswap16_i64 T ret arg) := by
  unfold tcg_gen_bswap16_i64
  repeat' (first | with_reducible (first
    | exact quiet_pure _ | exact quiet_abort | exact quiet_assert _
    | exact quiet_emit _ _ (by assumption) | exact quiet_emit _ _ (by decide)
    | exact quiet_new_i32 | exact quiet_cflags | apply tcg_gen_op2_quiet
    | apply tcg_gen_movi_i32_quiet | apply tcg_gen_bswap16_i32_quiet
    | apply tcg_temp_new_i64_quiet | apply tcg_temp_free_i64_quiet | apply tcg_gen_or_i64_quiet
    | apply tcg_gen_shli_i64_quiet | apply tcg_gen_shri_i64_quiet | apply tcg_gen_ext8u_i64_quiet
    | apply quiet_bind | apply quiet_ite | apply quiet_dite | intro _ | dsimp only [])
                  | decide | split)

theorem tcg_gen_bswap32_i64_quiet (T : TCGTarget) (ret arg : TCGv_i64) :
    Quiet (tcg_gen_bswap32_i64 T ret arg) := by
  unfold tcg_gen_bswap32_i64
  repeat' (first | with_reducible (first
    | exact quiet_pure _ | exact quiet_abort | exact quiet_assert _
    | exact quiet_emit _ _ (by assumption) | exact quiet_emit _ _ (by decide)
    | exact quiet_new_i32 | exact quiet_cflags | apply tcg_gen_op2_quiet
    | apply tcg_gen_movi_i32_quiet | apply tcg_gen_bswap32_i32_quiet
    | apply tcg_temp_new_i64_quiet | apply tcg_temp_free_i64_quiet | apply tcg_const_i64_quiet
    | apply tcg_gen_and_i64_quiet | apply tcg_gen_or_i64_quiet | apply tcg_gen_shli_i64_quiet
    | apply tcg_gen_shri_i64_quiet | apply quiet_bind | apply quiet_ite | apply quiet_dite
    | intro _ | dsimp only [])
                  | decide | split)

theorem tcg_gen_bswap64_i64_quiet (T : TCGTarget) (ret arg : TCGv_i64) :
    Quiet (tcg_gen_bswap64_i64 T ret arg) := by
  unfold tcg_gen_bswap64_i64
  repeat' (first | with_reducible (first
    | exact quiet_pure _ | exact quiet_abort | exact quiet_assert _
    | exact quiet_emit _ _ (by assumption) | exact quiet_emit _ _ (by decide)
    | exact quiet_new_i32 | exact quiet_cflags | apply tcg_gen_op2_quiet
    | apply tcg_temp_free_i32_quiet | apply tcg_gen_mov_i32_quiet
    | apply tcg_gen_bswap32_i32_quiet | apply tcg_temp_new_i64_quiet
    | apply tcg_temp_free_i64_quiet | apply tcg_gen_movi_i64_quiet | apply tcg_gen_and_i64_quiet
    | apply tcg_gen_or_i64_quiet | apply tcg_gen_shli_i64_quiet | apply tcg_gen_shri_i64_quiet
    | apply quiet_bind | apply quiet_ite | apply quiet_dite | intro _ | dsimp only [])
                  | decide | split)

theorem tcg_gen_not_i64_quiet (T : TCGTarget) (ret arg : TCGv_i64) :
    Quiet (tcg_gen_not_i64 T ret arg) := by
  unfold tcg_gen_not_i64
  repeat' (first | with_reducible (first
    | exact quiet_pure _ | exact quiet_abort | exact quiet_assert _
    | exact quiet_emit _ _ (by assumption) | exact quiet_emit _ _ (by decide)
    | exact quiet_new_i32 | exact quiet_cflags | apply tcg_gen_op2_quiet
    | apply tcg_gen_not_i32_quiet | apply tcg_gen_xori_i64_quiet | apply quiet_bind
    | apply quiet_ite | apply quiet_dite | intro _ | dsimp only [])
                  | decide | split)

theorem tcg_gen_neg_i64_quiet (T : TCGTarget) (ret arg : TCGv_i64) :
    Quiet (tcg_gen_neg_i64 T ret arg) := by
  unfold tcg_gen_neg_i64
  repeat' (first | with_reducible (first
    | exact quiet_pure _ | exact quiet_abort | exact quiet_assert _
    | exact quiet_emit _ _ (by assumption) | exact quiet_emit _ _ (by decide)
    | exact quiet_new_i32 | exact quiet_cflags | apply tcg_gen_op2_quiet
    | apply tcg_gen_subfi_i64_quiet | apply quiet_bind | apply quiet_ite | apply quiet_dite
    | intro _ | dsimp only [])
                  | decide | split)

theorem tcg_gen_andc_i64_quiet (T : TCGTarget) (ret arg1 arg2 : TCGv_i64) :
    Quiet (tcg_gen_andc_i64 T ret arg1 arg2) := by
  unfold tcg_gen_andc_i64
  repeat' (first | with_reducible (first
    | exact quiet_pure _ | exact quiet_abort | exact quiet_assert _
    | exact quiet_emit _ _ (by assumption) | exact quiet_emit _ _ (by decide)
    | exact quiet_new_i32 | exact quiet_cflags | apply tcg_gen_op3_quiet
    | apply tcg_gen_andc_i32_quiet | apply tcg_temp_new_i64_quiet | apply tcg_temp_free_i64_quiet
    | apply tcg_gen_and_i64_quiet | apply tcg_gen_not_i64_quiet | apply quiet_bind
    | apply quiet_ite | apply quiet_dite | intro _ | dsimp only [])
                  | decide | split)

theorem tcg_gen_clz_i64_quiet (T : TCGTarget) (ret arg1 arg2 : TCGv_i64) :
    Quiet (tcg_gen_clz_i64 T ret arg1 arg2) := by
  unfold tcg_gen_clz_i64
  repeat' (first | with_reducible (first
    | exact quiet_pure _ | exact quiet_abort | exact quiet_assert _
    | exact quiet_emit _ _ (by assumption) | exact quiet_emit _ _ (by decide)
    | exact quiet_new_i32 | exact quiet_cflags | apply tcg_gen_op3_quiet
    | apply gen_helper_i64_quiet | apply quiet_bind | apply quiet_ite | apply quiet_dite | intro _
    | dsimp only [])
                  | decide | split)

theorem tcg_gen_extrl_i64_i32_quiet (T : TCGTarget) (ret : TCGv_i32) (arg : TCGv_i64) :
    Quiet (tcg_gen_extrl_i64_i32 T ret arg) := by
  unfold tcg_gen_extrl_i64_i32
  repeat' (first | with_reducible (first
    | exact quiet_pure _ | exact quiet_abort | exact quiet_assert _
    | exact quiet_emit _ _ (by assumption) | exact quiet_emit _ _ (by decide)
    | exact quiet_new_i32 | exact quiet_cflags | apply tcg_gen_op2_quiet
    | apply tcg_gen_mov_i32_quiet | apply quiet_bind | apply quiet_ite | apply quiet_dite
    | intro _ | dsimp only [])
                  | decide | split)

theorem tcg_gen_extu_i32_i64_quiet (T : TCGTarget) (ret : TCGv_i64) (arg : TCGv_i32) :
    Quiet (tcg_gen_extu_i32_i64 T ret arg) := by
  unfold tcg_gen_extu_i32_i64
  repeat' (first | with_reducible (first
    | exact quiet_pure _ | exact quiet_abort | exact quiet_assert _
    | exact quiet_emit _ _ (by assumption) | exact quiet_emit _ _ (by decide)
    | exact quiet_new_i32 | exact quiet_cflags | apply tcg_gen_op2_quiet
    | apply tcg_gen_mov_i32_quiet | apply tcg_gen_movi_i32_quiet | apply quiet_bind
    | apply quiet_ite | apply quiet_dite | intro _ | dsimp only [])
                  | decide | split)

theorem tcg_gen_clz_i32_quiet (T : TCGTarget) (ret arg1 arg2 : TCGv_i32) :
    Quiet (tcg_gen_clz_i32 T ret arg1 arg2) := by
  unfold tcg_gen_clz_i32
  repeat' (first | with_reducible (first
    | exact quiet_pure _ | exact quiet_abort | exact quiet_assert _
    | exact quiet_emit _ _ (by assumption) | exact quiet_emit _ _ (by decide)
    | exact quiet_new_i32 | exact quiet_cflags | apply tcg_gen_op3_quiet
    | apply tcg_gen_subi_i32_quiet | apply gen_helper_clz_i32_quiet | apply tcg_temp_new_i64_quiet
    | apply tcg_temp_free_i64_quiet | apply tcg_gen_addi_i64_quiet | apply tcg_gen_clz_i64_quiet
    | apply tcg_gen_extrl_i64_i32_quiet | apply tcg_gen_extu_i32_i64_quiet | apply quiet_bind
    | apply quiet_ite | apply quiet_dite | intro _ | dsimp only [])
                  | decide | split)

theorem tcg_gen_clzi_i32_quiet (T : TCGTarget) (ret arg1 : TCGv_i32) (arg2 : Nat) :
    Quiet (tcg_gen_clzi_i32 T ret arg1 arg2) := by
  unfold tcg_gen_clzi_i32
  repeat' (first | with_reducible (first
    | exact quiet_pure _ | exact quiet_abort | exact quiet_assert _
    | exact quiet_emit _ _ (by assumption) | exact quiet_emit _ _ (by decide)
    | exact quiet_new_i32 | exact quiet_cflags | apply tcg_temp_free_i32_quiet
    | apply tcg_const_i32_quiet | apply tcg_gen_clz_i32_quiet | apply quiet_bind | apply quiet_ite
    | apply quiet_dite | intro _ | dsimp only [])
                  | decide | split)

theorem tcg_gen_clzi_i64_quiet (T : TCGTarget) (ret arg1 : TCGv_i64) (arg2 : Nat) :
    Quiet (tcg_gen_clzi_i64 T ret arg1 arg2) := by
  unfold tcg_gen_clzi_i64
  repeat' (first | with_reducible (first
    | exact quiet_pure _ | exact quiet_abort | exact quiet_assert _
    | exact quiet_emit _ _ (by assumption) | exact quiet_emit _ _ (by decide)
    | exact quiet_new_i32 | exact quiet_cflags | apply tcg_temp_free_i32_quiet
    | apply tcg_gen_movi_i32_quiet | apply tcg_const_i32_quiet | apply tcg_gen_addi_i32_quiet
    | apply tcg_temp_free_i64_quiet | apply tcg_const_i64_quiet | apply tcg_gen_clz_i64_quiet
    | apply tcg_gen_clz_i32_quiet | apply quiet_bind | apply quiet_ite | apply quiet_dite
    | intro _ | dsimp only [])
                  | decide | split)

theorem tcg_gen_rotl_i64_quiet (T : TCGTarget) (ret arg1 arg2 : TCGv_i64) :
    Quiet (tcg_gen_rotl_i64 T ret arg1 arg2) := by
  unfold tcg_gen_rotl_i64
  repeat' (first | with_reducible (first
    | exact quiet_pure _ | exact quiet_abort | exact quiet_assert _
    | exact quiet_emit _ _ (by assumption) | exact quiet_emit _ _ (by decide)
    | exact quiet_new_i32 | exact quiet_cflags | apply tcg_gen_op3_quiet
    | apply tcg_temp_new_i64_quiet | apply tcg_temp_free_i64_quiet | apply tcg_gen_or_i64_quiet
    | apply tcg_gen_shl_i64_quiet | apply tcg_gen_shr_i64_quiet | apply tcg_gen_subfi_i64_quiet
    | apply quiet_bind | apply quiet_ite | apply quiet_dite | intro _ | dsimp only [])
                  | decide | split)

theorem tcg_gen_rotli_i64_quiet (T : TCGTarget) (ret arg1 : TCGv_i64) (arg2 : Nat) :
    Quiet (tcg_gen_rotli_i64 T ret arg1 arg2) := by
  unfold tcg_gen_rotli_i64
  repeat' (first | with_reducible (first
    | exact quiet_pure _ | exact quiet_abort | exact quiet_assert _
    | exact quiet_emit _ _ (by assumption) | exact quiet_emit _ _ (by decide)
    | exact quiet_new_i32 | exact quiet_cflags | apply tcg_temp_new_i64_quiet
    | apply tcg_temp_free_i64_quiet | apply tcg_gen_mov_i64_quiet | apply tcg_const_i64_quiet
    | apply tcg_gen_or_i64_quiet | apply tcg_gen_shli_i64_quiet | apply tcg_gen_shri_i64_quiet
    | apply tcg_gen_rotl_i64_quiet | apply quiet_bind | apply quiet_ite | apply quiet_dite
    | intro _ | dsimp only [])
                  | decide | split)

theorem tcg_gen_rotri_i64_quiet (T : TCGTarget) (ret arg1 : TCGv_i64) (arg2 : Nat) :
    Quiet (tcg_gen_rotri_i64 T ret arg1 arg2) := by
  unfold tcg_gen_rotri_i64
  repeat' (first | with_reducible (first
    | exact quiet_pure _ | exact quiet_abort | exact quiet_assert _
    | exact quiet_emit _ _ (by assumption) | exact quiet_emit _ _ (by decide)
    | exact quiet_new_i32 | exact quiet_cflags | apply tcg_gen_mov_i64_quiet
    | apply tcg_gen_rotli_i64_quiet | apply quiet_bind | apply quiet_ite | apply quiet_dite
    | intro _ | dsimp only [])
                  | decide | split)

theorem tcg_gen_extract2_i64_native_quiet (T : TCGTarget) (ret al ah : Nat) (ofs : Nat)
    (h : T.TCG_TARGET_HAS_extract2_i64 = true) :
    Quiet (tcg_gen_extract2_i64 T ret al ah ofs) := by
  unfold tcg_gen_extract2_i64
  simp only [h, if_true]
  repeat' (first | with_reducible (first
    | exact absurd trivial (by assumption) | exact quiet_assert _ | apply tcg_gen_mov_i64_quiet
    | apply tcg_gen_rotri_i64_quiet | apply tcg_gen_op4_quiet | apply quiet_bind | apply quiet_ite
    | apply quiet_dite | intro _) | decide)

theorem tcg_gen_deposit_i64_quiet (T : TCGTarget) (ret arg1 arg2 : TCGv_i64) (ofs len : Nat) :
    Quiet (tcg_gen_deposit_i64 T ret arg1 arg2 ofs len) := by
  unfold tcg_gen_deposit_i64
  repeat' (first | with_reducible (first
    | exact tcg_gen_extract2_i64_native_quiet T _ _ _ _ (And.left (by assumption))
    | exact quiet_pure _ | exact quiet_abort | exact quiet_assert _
    | exact quiet_emit _ _ (by assumption) | exact quiet_emit _ _ (by decide)
    | exact quiet_new_i32 | exact quiet_cflags | apply tcg_gen_op5_quiet
    | apply tcg_gen_mov_i32_quiet | apply tcg_gen_deposit_i32_quiet | apply tcg_temp_new_i64_quiet
    | apply tcg_temp_free_i64_quiet | apply tcg_gen_mov_i64_quiet | apply tcg_gen_or_i64_quiet
    | apply tcg_gen_andi_i64_quiet | apply tcg_gen_shli_i64_quiet | apply tcg_gen_rotli_i64_quiet
    | apply tcg_gen_extract2_i64_quiet | apply quiet_bind | apply quiet_ite | apply quiet_dite
    | intro _ | dsimp only [])
                  | decide | split)

theorem tcg_gen_extract2_i64_quiet (T : TCGTarget) (ret al ah : TCGv_i64) (ofs : Nat) :
    Quiet (tcg_gen_extract2_i64 T ret al ah ofs) := by
  unfold tcg_gen_extract2_i64
  repeat' (first | with_reducible (first
    | exact quiet_pure _ | exact quiet_abort | exact quiet_assert _
    | exact quiet_emit _ _ (by assumption) | exact quiet_emit _ _ (by decide)
    | exact quiet_new_i32 | exact quiet_cflags | apply tcg_gen_op4_quiet
    | apply tcg_temp_new_i64_quiet | apply tcg_temp_free_i64_quiet | apply tcg_gen_mov_i64_quiet
    | apply tcg_gen_shri_i64_quiet | apply tcg_gen_rotri_i64_quiet
    | apply tcg_gen_deposit_i64_quiet | apply quiet_bind | apply quiet_ite | apply quiet_dite
    | intro _ | dsimp only [])
                  | decide | split)

theorem tcg_gen_extract_i64_quiet (T : TCGTarget) (ret arg : TCGv_i64) (ofs len : Nat) :
    Quiet (tcg_gen_extract_i64 T ret arg ofs len) := by
  unfold tcg_gen_extract_i64
  repeat' (first | with_reducible (first
    | exact quiet_pure _ | exact quiet_abort | exact quiet_assert _
    | exact quiet_emit _ _ (by assumption) | exact quiet_emit _ _ (by decide)
    | exact quiet_new_i32 | exact quiet_cflags | apply tcg_gen_op4_quiet
    | apply tcg_gen_movi_i32_quiet | apply tcg_gen_extract_i32_quiet
    | apply tcg_gen_andi_i64_quiet | apply tcg_gen_shli_i64_quiet | apply tcg_gen_shri_i64_quiet
    | apply tcg_gen_ext8u_i64_quiet | apply tcg_gen_ext16u_i64_quiet
    | apply tcg_gen_ext32u_i64_quiet | apply quiet_bind | apply quiet_ite | apply quiet_dite
    | intro _ | dsimp only [])
                  | decide | split)

theorem tcg_gen_sextract_i64_quiet (T : TCGTarget) (ret arg : TCGv_i64) (ofs len : Nat) :
    Quiet (tcg_gen_sextract_i64 T ret arg ofs len) := by
  unfold tcg_gen_sextract_i64
  repeat' (first | with_reducible (first
    | exact quiet_pure _ | exact quiet_abort | exact quiet_assert _
    | exact quiet_emit _ _ (by assumption) | exact quiet_emit _ _ (by decide)
    | exact quiet_new_i32 | exact quiet_cflags | apply tcg_gen_op4_quiet
    | apply tcg_temp_free_i32_quiet | apply tcg_gen_mov_i32_quiet | apply tcg_gen_sari_i32_quiet
    | apply tcg_gen_sextract_i32_quiet | apply tcg_gen_shli_i64_quiet
    | apply tcg_gen_shri_i64_quiet | apply tcg_gen_sari_i64_quiet | apply tcg_gen_ext8s_i64_quiet
    | apply tcg_gen_ext16s_i64_quiet | apply tcg_gen_ext32s_i64_quiet | apply quiet_bind
    | apply quiet_ite | apply quiet_dite | intro _ | dsimp only [])
                  | decide | split)

theorem tcg_gen_movcond_i64_quiet (T : TCGTarget) (cond : TCGCond) (ret c1 c2 v1 v2 : TCGv_i64) :
    Quiet (tcg_gen_movcond_i64 T cond ret c1 c2 v1 v2) := by
  unfold tcg_gen_movcond_i64
  repeat' (first | with_reducible (first
    | exact quiet_pure _ | exact quiet_abort | exact quiet_assert _
    | exact quiet_emit _ _ (by assumption) | exact quiet_emit _ _ (by decide)
    | exact quiet_new_i32 | exact quiet_cflags | apply tcg_gen_op6_quiet
    | apply tcg_temp_free_i32_quiet | apply tcg_gen_movi_i32_quiet | apply tcg_gen_and_i32_quiet
    | apply tcg_gen_or_i32_quiet | apply tcg_gen_neg_i32_quiet | apply tcg_gen_andc_i32_quiet
    | apply tcg_gen_movcond_i32_quiet | apply tcg_temp_new_i64_quiet
    | apply tcg_temp_free_i64_quiet | apply tcg_gen_mov_i64_quiet | apply tcg_gen_and_i64_quiet
    | apply tcg_gen_or_i64_quiet | apply tcg_gen_setcond_i64_quiet | apply tcg_gen_neg_i64_quiet
    | apply tcg_gen_andc_i64_quiet | apply quiet_bind | apply quiet_ite | apply quiet_dite
    | intro _ | dsimp only [])
                  | decide | split)

theorem tcg_gen_smin_i32_quiet (T : TCGTarget) (ret a b : TCGv_i32) :
    Quiet (tcg_gen_smin_i32 T ret a b) := by
  unfold tcg_gen_smin_i32
  repeat' (first | with_reducible (first
    | exact quiet_pure _ | exact quiet_abort | exact quiet_assert _
    | exact quiet_emit _ _ (by assumption) | exact quiet_emit _ _ (by decide)
    | exact quiet_new_i32 | exact quiet_cflags | apply tcg_gen_movcond_i32_quiet
    | apply quiet_bind | apply quiet_ite | apply quiet_dite | intro _ | dsimp only [])
                  | decide | split)

theorem tcg_gen_umin_i32_quiet (T : TCGTarget) (ret a b : TCGv_i32) :
    Quiet (tcg_gen_umin_i32 T ret a b) := by
  unfold tcg_gen_umin_i32
  repeat' (first | with_reducible (first
    | exact quiet_pure _ | exact quiet_abort | exact quiet_assert _
    | exact quiet_emit _ _ (by assumption) | exact quiet_emit _ _ (by decide)
    | exact quiet_new_i32 | exact quiet_cflags | apply tcg_gen_movcond_i32_quiet
    | apply quiet_bind | apply quiet_ite | apply quiet_dite | intro _ | dsimp only [])
                  | decide | split)

theorem tcg_gen_smax_i32_quiet (T : TCGTarget) (ret a b : TCGv_i32) :
    Quiet (tcg_gen_smax_i32 T ret a b) := by
  unfold tcg_gen_smax_i32
  repeat' (first | with_reducible (first
    | exact quiet_pure _ | exact quiet_abort | exact quiet_assert _
    | exact quiet_emit _ _ (by assumption) | exact quiet_emit _ _ (by decide)
    | exact quiet_new_i32 | exact quiet_cflags | apply tcg_gen_movcond_i32_quiet
    | apply quiet_bind | apply quiet_ite | apply quiet_dite | intro _ | dsimp only [])
                  | decide | split)

theorem tcg_gen_umax_i32_quiet (T : TCGTarget) (ret a b : TCGv_i32) :
    Quiet (tcg_gen_umax_i32 T ret a b) := by
  unfold tcg_gen_umax_i32
  repeat' (first | with_reducible (first
    | exact quiet_pure _ | exact quiet_abort | exact quiet_assert _
    | exact quiet_emit _ _ (by assumption) | exact quiet_emit _ _ (by decide)
    | exact quiet_new_i32 | exact quiet_cflags | apply tcg_gen_movcond_i32_quiet
    | apply quiet_bind | apply quiet_ite | apply quiet_dite | intro _ | dsimp only [])
                  | decide | split)

theorem tcg_gen_smin_i64_quiet (T : TCGTarget) (ret a b : TCGv_i64) :
    Quiet (tcg_gen_smin_i64 T ret a b) := by
  unfold tcg_gen_smin_i64
  repeat' (first | with_reducible (first
    | exact quiet_pure _ | exact quiet_abort | exact quiet_assert _
    | exact quiet_emit _ _ (by assumption) | exact quiet_emit _ _ (by decide)
    | exact quiet_new_i32 | exact quiet_cflags | apply tcg_gen_movcond_i64_quiet
    | apply quiet_bind | apply quiet_ite | apply quiet_dite | intro _ | dsimp only [])
                  | decide | split)

theorem tcg_gen_umin_i64_quiet (T : TCGTarget) (ret a b : TCGv_i64) :
    Quiet (tcg_gen_umin_i64 T ret a b) := by
  unfold tcg_gen_umin_i64
  repeat' (first | with_reducible (first
    | exact quiet_pure _ | exact quiet_abort | exact quiet_assert _
    | exact quiet_emit _ _ (by assumption) | exact quiet_emit _ _ (by decide)
    | exact quiet_new_i32 | exact quiet_cflags | apply tcg_gen_movcond_i64_quiet
    | apply quiet_bind | apply quiet_ite | apply quiet_dite | intro _ | dsimp only [])
                  | decide | split)

theorem tcg_gen_smax_i64_quiet (T : TCGTarget) (ret a b : TCGv_i64) :
    Quiet (tcg_gen_smax_i64 T ret a b) := by
  unfold tcg_gen_smax_i64
  repeat' (first | with_reducible (first
    | exact quiet_pure _ | exact quiet_abort | exact quiet_assert _
    | exact quiet_emit _ _ (by assumption) | exact quiet_emit _ _ (by decide)
    | exact quiet_new_i32 | exact quiet_cflags | apply tcg_gen_movcond_i64_quiet
    | apply quiet_bind | apply quiet_ite | apply quiet_dite | intro _ | dsimp only [])
                  | decide | split)

theorem tcg_gen_umax_i64_quiet (T : TCGTarget) (ret a b : TCGv_i64) :
    Quiet (tcg_gen_umax_i64 T ret a b) := by
  unfold tcg_gen_umax_i64
  repeat' (first | with_reducible (first
    | exact quiet_pure _ | exact quiet_abort | exact quiet_assert _
    | exact quiet_emit _ _ (by assumption) | exact quiet_emit _ _ (by decide)
    | exact quiet_new_i32 | exact quiet_cflags | apply tcg_gen_movcond_i64_quiet
    | apply quiet_bind | apply quiet_ite | apply quiet_dite | intro _ | dsimp only [])
                  | decide | split)

theorem gen_helper_ctz_i32_quiet (ret arg1 arg2 : TCGv_i32) :
    Quiet (gen_helper_ctz_i32 ret arg1 arg2) := by
  unfold gen_helper_ctz_i32
  repeat' (first | with_reducible (first
    | exact quiet_pure _ | exact quiet_abort | exact quiet_assert _
    | exact quiet_emit _ _ (by assumption) | exact quiet_emit _ _ (by decide)
    | exact quiet_new_i32 | exact quiet_cflags | apply tcg_gen_callN_quiet | apply quiet_bind
    | apply quiet_ite | apply quiet_dite | intro _ | dsimp only [])
                  | decide | split)

theorem gen_helper_ctpop_i32_quiet (ret arg1 : TCGv_i32) :
    Quiet (gen_helper_ctpop_i32 ret arg1) := by
  unfold gen_helper_ctpop_i32
  repeat' (first | with_reducible (first
    | exact quiet_pure _ | exact quiet_abort | exact quiet_assert _
    | exact quiet_emit _ _ (by assumption) | exact quiet_emit _ _ (by decide)
    | exact quiet_new_i32 | exact quiet_cflags | apply tcg_gen_callN_quiet | apply quiet_bind
    | apply quiet_ite | apply quiet_dite | intro _ | dsimp only [])
                  | decide | split)

theorem gen_helper_ctpop_i64_quiet (T : TCGTarget) (ret arg1 : TCGv_i64) :
    Quiet (gen_helper_ctpop_i64 T ret arg1) := by
  unfold gen_helper_ctpop_i64
  repeat' (first | with_reducible (first
    | exact quiet_pure _ | exact quiet_abort | exact quiet_assert _
    | exact quiet_emit _ _ (by assumption) | exact quiet_emit _ _ (by decide)
    | exact quiet_new_i32 | exact quiet_cflags | apply tcg_gen_callN_quiet | apply quiet_bind
    | apply quiet_ite | apply quiet_dite | intro _ | dsimp only [])
                  | decide | split)

theorem tcg_gen_ctpop_i64_native_quiet (T : TCGTarget) (ret arg1 : Nat)
    (h : T.TCG_TARGET_HAS_ctpop_i64 = true) :
    Quiet (tcg_gen_ctpop_i64 T ret arg1) := by
  unfold tcg_gen_ctpop_i64
  simp only [h, dite_true]
  exact tcg_gen_op2_quiet _ _ _ (by decide)

theorem tcg_gen_ctpop_i32_quiet (T : TCGTarget) (ret arg1 : TCGv_i32) :
    Quiet (tcg_gen_ctpop_i32 T ret arg1) := by
  unfold tcg_gen_ctpop_i32
  repeat' (first | with_reducible (first
    | exact tcg_gen_ctpop_i64_native_quiet T _ _ (by assumption) | exact quiet_pure _
    | exact quiet_abort | exact quiet_assert _ | exact quiet_emit _ _ (by assumption)
    | exact quiet_emit _ _ (by decide) | exact quiet_new_i32 | exact quiet_cflags
    | apply tcg_gen_op2_quiet | apply tcg_temp_new_i64_quiet | apply tcg_temp_free_i64_quiet
    | apply tcg_gen_extrl_i64_i32_quiet | apply tcg_gen_extu_i32_i64_quiet
    | apply gen_helper_ctpop_i32_quiet | apply tcg_gen_ctpop_i64_quiet | apply quiet_bind
    | apply quiet_ite | apply quiet_dite | intro _ | dsimp only [])
                  | decide | split)

theorem tcg_gen_ctpop_i64_quiet (T : TCGTarget) (ret arg1 : TCGv_i64) :
    Quiet (tcg_gen_ctpop_i64 T ret arg1) := by
  unfold tcg_gen_ctpop_i64
  repeat' (first | with_reducible (first
    | exact quiet_pure _ | exact quiet_abort | exact quiet_assert _
    | exact quiet_emit _ _ (by assumption) | exact quiet_emit _ _ (by decide)
    | exact quiet_new_i32 | exact quiet_cflags | apply tcg_gen_op2_quiet
    | apply tcg_gen_movi_i32_quiet | apply tcg_gen_add_i32_quiet
    | apply gen_helper_ctpop_i64_quiet | apply tcg_gen_ctpop_i32_quiet | apply quiet_bind
    | apply quiet_ite | apply quiet_dite | intro _ | dsimp only [])
                  | decide | split)

theorem tcg_gen_ctz_i64_quiet (T : TCGTarget) (ret arg1 arg2 : TCGv_i64) :
    Quiet (tcg_gen_ctz_i64 T ret arg1 arg2) := by
  unfold tcg_gen_ctz_i64
  repeat' (first | with_reducible (first
    | exact quiet_pure _ | exact quiet_abort | exact quiet_assert _
    | exact quiet_emit _ _ (by assumption) | exact quiet_emit _ _ (by decide)
    | exact quiet_new_i32 | exact quiet_cflags | apply tcg_gen_op3_quiet
    | apply gen_helper_i64_quiet | apply tcg_temp_new_i64_quiet | apply tcg_temp_free_i64_quiet
    | apply tcg_const_i64_quiet | apply tcg_gen_and_i64_quiet | apply tcg_gen_subi_i64_quiet
    | apply tcg_gen_xori_i64_quiet | apply tcg_gen_neg_i64_quiet | apply tcg_gen_andc_i64_quiet
    | apply tcg_gen_clzi_i64_quiet | apply tcg_gen_movcond_i64_quiet
    | apply tcg_gen_ctpop_i64_quiet | apply quiet_bind | apply quiet_ite | apply quiet_dite
    | intro _ | dsimp only [])
                  | decide | split)

theorem tcg_gen_ctz_i32_quiet (T : TCGTarget) (ret arg1 arg2 : TCGv_i32) :
    Quiet (tcg_gen_ctz_i32 T ret arg1 arg2) := by
  unfold tcg_gen_ctz_i32
  repeat' (first | with_reducible (first
    | exact quiet_pure _ | exact quiet_abort | exact quiet_assert _
    | exact quiet_emit _ _ (by assumption) | exact quiet_emit _ _ (by decide)
    | exact quiet_new_i32 | exact quiet_cflags | apply tcg_gen_op3_quiet
    | apply tcg_temp_free_i32_quiet | apply tcg_const_i32_quiet | apply tcg_gen_and_i32_quiet
    | apply tcg_gen_subi_i32_quiet | apply tcg_gen_xori_i32_quiet | apply tcg_gen_neg_i32_quiet
    | apply tcg_gen_andc_i32_quiet | apply tcg_gen_movcond_i32_quiet
    | apply tcg_temp_new_i64_quiet | apply tcg_temp_free_i64_quiet
    | apply tcg_gen_extrl_i64_i32_quiet | apply tcg_gen_extu_i32_i64_quiet
    | apply tcg_gen_clzi_i32_quiet | apply gen_helper_ctz_i32_quiet
    | apply tcg_gen_ctpop_i32_quiet | apply tcg_gen_ctz_i64_quiet | apply quiet_bind
    | apply quiet_ite | apply quiet_dite | intro _ | dsimp only [])
                  | decide | split)

theorem tcg_gen_ctzi_i32_quiet (T : TCGTarget) (ret arg1 : TCGv_i32) (arg2 : Nat) :
    Quiet (tcg_gen_ctzi_i32 T ret arg1 arg2) := by
  unfold tcg_gen_ctzi_i32
  repeat' (first | with_reducible (first
    | exact quiet_pure _ | exact quiet_abort | exact quiet_assert _
    | exact quiet_emit _ _ (by assumption) | exact quiet_emit _ _ (by decide)
    | exact quiet_new_i32 | exact quiet_cflags | apply tcg_temp_free_i32_quiet
    | apply tcg_const_i32_quiet | apply tcg_gen_subi_i32_quiet | apply tcg_gen_andc_i32_quiet
    | apply tcg_gen_ctpop_i32_quiet | apply tcg_gen_ctz_i32_quiet | apply quiet_bind
    | apply quiet_ite | apply quiet_dite | intro _ | dsimp only [])
                  | decide | split)

theorem tcg_gen_ctzi_i64_quiet (T : TCGTarget) (ret arg1 : TCGv_i64) (arg2 : Nat) :
    Quiet (tcg_gen_ctzi_i64 T ret arg1 arg2) := by
  unfold tcg_gen_ctzi_i64
  repeat' (first | with_reducible (first
    | exact quiet_pure _ | exact quiet_abort | exact quiet_assert _
    | exact quiet_emit _ _ (by assumption) | exact quiet_emit _ _ (by decide)
    | exact quiet_new_i32 | exact quiet_cflags | apply tcg_temp_free_i32_quiet
    | apply tcg_gen_movi_i32_quiet | apply tcg_const_i32_quiet | apply tcg_gen_addi_i32_quiet
    | apply tcg_temp_new_i64_quiet | apply tcg_temp_free_i64_quiet | apply tcg_const_i64_quiet
    | apply tcg_gen_subi_i64_quiet | apply tcg_gen_andc_i64_quiet | apply tcg_gen_ctpop_i64_quiet
    | apply tcg_gen_ctz_i64_quiet | apply tcg_gen_ctz_i32_quiet | apply quiet_bind
    | apply quiet_ite | apply quiet_dite | intro _ | dsimp only [])
                  | decide | split)

theorem tcg_gen_ori_i32_quiet (ret arg1 : TCGv_i32) (arg2 : Nat) :
    Quiet (tcg_gen_ori_i32 ret arg1 arg2) := by
  unfold tcg_gen_ori_i32
  repeat' (first | with_reducible (first
    | exact quiet_pure _ | exact quiet_abort | exact quiet_assert _
    | exact quiet_emit _ _ (by assumption) | exact quiet_emit _ _ (by decide)
    | exact quiet_new_i32 | exact quiet_cflags | apply tcg_temp_free_i32_quiet
    | apply tcg_gen_mov_i32_quiet | apply tcg_gen_movi_i32_quiet | apply tcg_const_i32_quiet
    | apply tcg_gen_or_i32_quiet | apply quiet_bind | apply quiet_ite | apply quiet_dite | intro _
    | dsimp only [])
                  | decide | split)

theorem tcg_gen_ori_i64_quiet (T : TCGTarget) (ret arg1 : TCGv_i64) (arg2 : Nat) :
    Quiet (tcg_gen_ori_i64 T ret arg1 arg2) := by
  unfold tcg_gen_ori_i64
  repeat' (first | with_reducible (first
    | exact quiet_pure _ | exact quiet_abort | exact quiet_assert _
    | exact quiet_emit _ _ (by assumption) | exact quiet_emit _ _ (by decide)
    | exact quiet_new_i32 | exact quiet_cflags | apply tcg_temp_free_i64_quiet
    | apply tcg_gen_mov_i64_quiet | apply tcg_gen_movi_i64_quiet | apply tcg_const_i64_quiet
    | apply tcg_gen_or_i64_quiet | apply tcg_gen_ori_i32_quiet | apply quiet_bind
    | apply quiet_ite | apply quiet_dite | intro _ | dsimp only [])
                  | decide | split)

theorem tcg_gen_mul_i32_quiet (ret arg1 arg2 : TCGv_i32) :
    Quiet (tcg_gen_mul_i32 ret arg1 arg2) := by
  unfold tcg_gen_mul_i32
  repeat' (first | with_reducible (first
    | exact quiet_pure _ | exact quiet_abort | exact quiet_assert _
    | exact quiet_emit _ _ (by assumption) | exact quiet_emit _ _ (by decide)
    | exact quiet_new_i32 | exact quiet_cflags | apply tcg_gen_op3_quiet | apply quiet_bind
    | apply quiet_ite | apply quiet_dite | intro _ | dsimp only [])
                  | decide | split)

theorem tcg_gen_muli_i32_quiet (ret arg1 : TCGv_i32) (arg2 : Nat) :
    Quiet (tcg_gen_muli_i32 ret arg1 arg2) := by
  unfold tcg_gen_muli_i32
  repeat' (first | with_reducible (first
    | exact quiet_pure _ | exact quiet_abort | exact quiet_assert _
    | exact quiet_emit _ _ (by assumption) | exact quiet_emit _ _ (by decide)
    | exact quiet_new_i32 | exact quiet_cflags | apply tcg_temp_free_i32_quiet
    | apply tcg_gen_movi_i32_quiet | apply tcg_const_i32_quiet | apply tcg_gen_shli_i32_quiet
    | apply tcg_gen_mul_i32_quiet | apply quiet_bind | apply quiet_ite | apply quiet_dite
    | intro _ | dsimp only [])
                  | decide | split)

theorem tcg_gen_extrh_i64_i32_quiet (T : TCGTarget) (ret : TCGv_i32) (arg : TCGv_i64) :
    Quiet (tcg_gen_extrh_i64_i32 T ret arg) := by
  unfold tcg_gen_extrh_i64_i32
  repeat' (first | with_reducible (first
    | exact quiet_pure _ | exact quiet_abort | exact quiet_assert _
    | exact quiet_emit _ _ (by assumption) | exact quiet_emit _ _ (by decide)
    | exact quiet_new_i32 | exact quiet_cflags | apply tcg_gen_op2_quiet
    | apply tcg_gen_mov_i32_quiet | apply tcg_temp_new_i64_quiet | apply tcg_temp_free_i64_quiet
    | apply tcg_gen_shri_i64_quiet | apply quiet_bind | apply quiet_ite | apply quiet_dite
    | intro _ | dsimp only [])
                  | decide | split)

theorem tcg_gen_ext_i32_i64_quiet (T : TCGTarget) (ret : TCGv_i64) (arg : TCGv_i32) :
    Quiet (tcg_gen_ext_i32_i64 T ret arg) := by
  unfold tcg_gen_ext_i32_i64
  repeat' (first | with_reducible (first
    | exact quiet_pure _ | exact quiet_abort | exact quiet_assert _
    | exact quiet_emit _ _ (by assumption) | exact quiet_emit _ _ (by decide)
    | exact quiet_new_i32 | exact quiet_cflags | apply tcg_gen_op2_quiet
    | apply tcg_gen_mov_i32_quiet | apply tcg_gen_sari_i32_quiet | apply quiet_bind
    | apply quiet_ite | apply quiet_dite | intro _ | dsimp only [])
                  | decide | split)

theorem tcg_gen_extr_i64_i32_quiet (T : TCGTarget) (lo hi : TCGv_i32) (arg : TCGv_i64) :
    Quiet (tcg_gen_extr_i64_i32 T lo hi arg) := by
  unfold tcg_gen_extr_i64_i32
  repeat' (first | with_reducible (first
    | exact quiet_pure _ | exact quiet_abort | exact quiet_assert _
    | exact quiet_emit _ _ (by assumption) | exact quiet_emit _ _ (by decide)
    | exact quiet_new_i32 | exact quiet_cflags | apply tcg_gen_mov_i32_quiet
    | apply tcg_gen_extrl_i64_i32_quiet | apply tcg_gen_extrh_i64_i32_quiet | apply quiet_bind
    | apply quiet_ite | apply quiet_dite | intro _ | dsimp only [])
                  | decide | split)

theorem tcg_gen_add2_i64_quiet (T : TCGTarget) (rl rh al ah bl bh : TCGv_i64) :
    Quiet (tcg_gen_add2_i64 T rl rh al ah bl bh) := by
  unfold tcg_gen_add2_i64
  repeat' (first | with_reducible (first
    | exact quiet_pure _ | exact quiet_abort | exact quiet_assert _
    | exact quiet_emit _ _ (by assumption) | exact quiet_emit _ _ (by decide)
    | exact quiet_new_i32 | exact quiet_cflags | apply tcg_gen_op6_quiet
    | apply tcg_temp_new_i64_quiet | apply tcg_temp_free_i64_quiet | apply tcg_gen_mov_i64_quiet
    | apply tcg_gen_add_i64_quiet | apply tcg_gen_setcond_i64_quiet | apply quiet_bind
    | apply quiet_ite | apply quiet_dite | intro _ | dsimp only [])
                  | decide | split)

theorem tcg_gen_sub2_i64_quiet (T : TCGTarget) (rl rh al ah bl bh : TCGv_i64) :
    Quiet (tcg_gen_sub2_i64 T rl rh al ah bl bh) := by
  unfold tcg_gen_sub2_i64
  repeat' (first | with_reducible (first
    | exact quiet_pure _ | exact quiet_abort | exact quiet_assert _
    | exact quiet_emit _ _ (by assumption) | exact quiet_emit _ _ (by decide)
    | exact quiet_new_i32 | exact quiet_cflags | apply tcg_gen_op6_quiet
    | apply tcg_temp_new_i64_quiet | apply tcg_temp_free_i64_quiet | apply tcg_gen_mov_i64_quiet
    | apply tcg_gen_sub_i64_quiet | apply tcg_gen_setcond_i64_quiet | apply quiet_bind
    | apply quiet_ite | apply quiet_dite | intro _ | dsimp only [])
                  | decide | split)

theorem tcg_gen_mb_quiet (mb_type : Nat) :
    Quiet (tcg_gen_mb mb_type) := by
  unfold tcg_gen_mb
  repeat' (first | with_reducible (first
    | exact quiet_pure _ | exact quiet_abort | exact quiet_assert _
    | exact quiet_emit _ _ (by assumption) | exact quiet_emit _ _ (by decide)
    | exact quiet_new_i32 | exact quiet_cflags | apply tcg_gen_op1_quiet | apply quiet_bind
    | apply quiet_ite | apply quiet_dite | intro _ | dsimp only [])
                  | decide | split)

theorem tcg_gen_req_mo_quiet (T : TCGTarget) (type : Nat) :
    Quiet (tcg_gen_req_mo T type) := by
  unfold tcg_gen_req_mo
  repeat' (first | with_reducible (first
    | exact quiet_pure _ | exact quiet_abort | exact quiet_assert _
    | exact quiet_emit _ _ (by assumption) | exact quiet_emit _ _ (by decide)
    | exact quiet_new_i32 | exact quiet_cflags | apply tcg_gen_mb_quiet | apply quiet_bind
    | apply quiet_ite | apply quiet_dite | intro _ | dsimp only [])
                  | decide | split)

theorem get_alignment_bits_quiet (T : TCGTarget) (op : Nat) :
    Quiet (get_alignment_bits T op) := by
  unfold get_alignment_bits
  repeat' (first | with_reducible (first
    | exact quiet_pure _ | exact quiet_abort | exact quiet_assert _
    | exact quiet_emit _ _ (by assumption) | exact quiet_emit _ _ (by decide)
    | exact quiet_new_i32 | exact quiet_cflags | apply quiet_bind | apply quiet_ite
    | apply quiet_dite | intro _ | dsimp only [])
                  | decide | split)

theorem tcg_canonicalize_memop_quiet (T : TCGTarget) (op : Nat) (is64 st : Bool) :
    Quiet (tcg_canonicalize_memop T op is64 st) := by
  unfold tcg_canonicalize_memop
  repeat' (first | with_reducible (first
    | exact quiet_pure _ | exact quiet_abort | exact quiet_assert _
    | exact quiet_emit _ _ (by assumption) | exact quiet_emit _ _ (by decide)
    | exact quiet_new_i32 | exact quiet_cflags | apply get_alignment_bits_quiet | apply quiet_bind
    | apply quiet_ite | apply quiet_dite | intro _ | dsimp only [])
                  | decide | split)

theorem tcg_temp_new_cap_checked_quiet (T : TCGTarget) :
    Quiet (tcg_temp_new_cap_checked T) := by
  unfold tcg_temp_new_cap_checked
  repeat' (first | with_reducible (first
    | exact quiet_pure _ | exact quiet_abort | exact quiet_assert _
    | exact quiet_emit _ _ (by assumption) | exact quiet_emit _ _ (by decide)
    | exact quiet_new_i32 | exact quiet_cflags | apply tcg_temp_new_i64_quiet | apply quiet_bind
    | apply quiet_ite | apply quiet_dite | intro _ | dsimp only [])
                  | decide | split)

theorem tcg_gen_mov_tl_quiet (T : TCGTarget) (ret arg : TCGv) :
    Quiet (tcg_gen_mov_tl T ret arg) := by
  unfold tcg_gen_mov_tl
  repeat' (first | with_reducible (first
    | exact quiet_pure _ | exact quiet_abort | exact quiet_assert _
    | exact quiet_emit _ _ (by assumption) | exact quiet_emit _ _ (by decide)
    | exact quiet_new_i32 | exact quiet_cflags | apply tcg_gen_mov_i32_quiet
    | apply tcg_gen_mov_i64_quiet | apply quiet_bind | apply quiet_ite | apply quiet_dite
    | intro _ | dsimp only [])
                  | decide | split)

theorem trace_guest_mem_before_tcg_quiet (T : TCGTarget) (addr : TCGv) (info : Nat) :
    Quiet (trace_guest_mem_before_tcg T addr info) := by
  unfold trace_guest_mem_before_tcg
  repeat' (first | with_reducible (first
    | exact quiet_pure _ | exact quiet_abort | exact quiet_assert _
    | exact quiet_emit _ _ (by assumption) | exact quiet_emit _ _ (by decide)
    | exact quiet_new_i32 | exact quiet_cflags | apply tcg_temp_free_i32_quiet
    | apply tcg_const_i32_quiet | apply tcg_gen_callN_quiet | apply quiet_bind | apply quiet_ite
    | apply quiet_dite | intro _ | dsimp only [])
                  | decide | split)

theorem plugin_prep_mem_callbacks_quiet (T : TCGTarget) (vaddr : TCGv) :
    Quiet (plugin_prep_mem_callbacks T vaddr) := by
  unfold plugin_prep_mem_callbacks
  repeat' (first | with_reducible (first
    | exact quiet_pure _ | exact quiet_abort | exact quiet_assert _
    | exact quiet_emit _ _ (by assumption) | exact quiet_emit _ _ (by decide)
    | exact quiet_new_i32 | exact quiet_cflags | apply tcg_temp_new_cap_checked_quiet
    | apply tcg_gen_mov_tl_quiet | apply quiet_bind | apply quiet_ite | apply quiet_dite | intro _
    | dsimp only [])
                  | decide | split)

theorem plugin_gen_empty_mem_callback_quiet (addr : TCGv) (info : Nat) :
    Quiet (plugin_gen_empty_mem_callback addr info) := by
  unfold plugin_gen_empty_mem_callback
  repeat' (first | with_reducible (first
    | exact quiet_pure _ | exact quiet_abort | exact quiet_assert _
    | exact quiet_emit _ _ (by assumption) | exact quiet_emit _ _ (by decide)
    | exact quiet_new_i32 | exact quiet_cflags | apply tcg_gen_callN_quiet | apply quiet_bind
    | apply quiet_ite | apply quiet_dite | intro _ | dsimp only [])
                  | decide | split)

theorem plugin_gen_mem_callbacks_quiet (T : TCGTarget) (vaddr : TCGv) (info : Nat) :
    Quiet (plugin_gen_mem_callbacks T vaddr info) := by
  unfold plugin_gen_mem_callbacks
  repeat' (first | with_reducible (first
    | exact quiet_pure _ | exact quiet_abort | exact quiet_assert _
    | exact quiet_emit _ _ (by assumption) | exact quiet_emit _ _ (by decide)
    | exact quiet_new_i32 | exact quiet_cflags | apply plugin_gen_empty_mem_callback_quiet
    | apply quiet_bind | apply quiet_ite | apply quiet_dite | intro _ | dsimp only [])
                  | decide | split)

theorem gen_cheri_invalidate_tags_quiet (T : TCGTarget) (out_addr : TCGv) (memop : TCGv_i32) (idx : Nat) :
    Quiet (gen_cheri_invalidate_tags T out_addr memop idx) := by
  unfold gen_cheri_invalidate_tags
  repeat' (first | with_reducible (first
    | exact quiet_pure _ | exact quiet_abort | exact quiet_assert _
    | exact quiet_emit _ _ (by assumption) | exact quiet_emit _ _ (by decide)
    | exact quiet_new_i32 | exact quiet_cflags | apply tcg_temp_free_i32_quiet
    | apply tcg_const_i32_quiet | apply tcg_gen_callN_quiet | apply quiet_bind | apply quiet_ite
    | apply quiet_dite | intro _ | dsimp only [])
                  | decide | split)

theorem gen_cheri_break_loadlink_quiet (addr : TCGv) (op : TCGv_i32) :
    Quiet (gen_cheri_break_loadlink addr op) := by
  unfold gen_cheri_break_loadlink
  repeat' (first | with_reducible (first
    | exact quiet_pure _ | exact quiet_abort | exact quiet_assert _
    | exact quiet_emit _ _ (by assumption) | exact quiet_emit _ _ (by decide)
    | exact quiet_new_i32 | exact quiet_cflags | apply tcg_gen_callN_quiet | apply quiet_bind
    | apply quiet_ite | apply quiet_dite | intro _ | dsimp only [])
                  | decide | split)

theorem gen_rvfi_dii_set_field_quiet (T : TCGTarget) (field : RvfiField) (arg : Nat) :
    Quiet (gen_rvfi_dii_set_field T field arg) := by
  unfold gen_rvfi_dii_set_field
  repeat' (first | with_reducible (first
    | exact quiet_pure _ | exact quiet_abort | exact quiet_assert _
    | exact quiet_emit _ _ (by assumption) | exact quiet_emit _ _ (by decide)
    | exact quiet_new_i32 | exact quiet_cflags | apply tcg_gen_callN_quiet | apply quiet_bind
    | apply quiet_ite | apply quiet_dite | intro _ | dsimp only [])
                  | decide | split)

theorem gen_rvfi_dii_set_field_const_i32_quiet (T : TCGTarget) (field : RvfiField) (c : Nat) :
    Quiet (gen_rvfi_dii_set_field_const_i32 T field c) := by
  unfold gen_rvfi_dii_set_field_const_i32
  repeat' (first | with_reducible (first
    | exact quiet_pure _ | exact quiet_abort | exact quiet_assert _
    | exact quiet_emit _ _ (by assumption) | exact quiet_emit _ _ (by decide)
    | exact quiet_new_i32 | exact quiet_cflags | apply tcg_gen_callN_quiet | apply quiet_bind
    | apply quiet_ite | apply quiet_dite | intro _ | dsimp only [])
                  | decide | split)

theorem handle_conditional_invalidate_quiet (T : TCGTarget) (checked_addr : TCGv) (memop : Nat) (store_happens : TCGv_i32) :
    Quiet (handle_conditional_invalidate T checked_addr memop store_happens) := by
  unfold handle_conditional_invalidate
  repeat' (first | with_reducible (first
    | exact quiet_pure _ | exact quiet_abort | exact quiet_assert _
    | exact quiet_emit _ _ (by assumption) | exact quiet_emit _ _ (by decide)
    | exact quiet_new_i32 | exact quiet_cflags | apply tcg_temp_free_i32_quiet
    | apply tcg_const_i32_quiet | apply tcg_gen_callN_quiet | apply gen_cheri_break_loadlink_quiet
    | apply quiet_bind | apply quiet_ite | apply quiet_dite | intro _ | dsimp only [])
                  | decide | split)

theorem tcg_gen_ext_i32_quiet (T : TCGTarget) (ret val : TCGv_i32) (opc : Nat) :
    Quiet (tcg_gen_ext_i32 T ret val opc) := by
  unfold tcg_gen_ext_i32
  repeat' (first | with_reducible (first
    | exact quiet_pure _ | exact quiet_abort | exact quiet_assert _
    | exact quiet_emit _ _ (by assumption) | exact quiet_emit _ _ (by decide)
    | exact quiet_new_i32 | exact quiet_cflags | apply tcg_gen_mov_i32_quiet
    | apply tcg_gen_ext8s_i32_quiet | apply tcg_gen_ext16s_i32_quiet
    | apply tcg_gen_ext8u_i32_quiet | apply tcg_gen_ext16u_i32_quiet | apply quiet_bind
    | apply quiet_ite | apply quiet_dite | intro _ | dsimp only [])
                  | decide | split)

theorem tcg_gen_ext_i64_quiet (T : TCGTarget) (ret val : TCGv_i64) (opc : Nat) :
    Quiet (tcg_gen_ext_i64 T ret val opc) := by
  unfold tcg_gen_ext_i64
  repeat' (first | with_reducible (first
    | exact quiet_pure _ | exact quiet_abort | exact quiet_assert _
    | exact quiet_emit _ _ (by assumption) | exact quiet_emit _ _ (by decide)
    | exact quiet_new_i32 | exact quiet_cflags | apply tcg_gen_mov_i64_quiet
    | apply tcg_gen_ext8s_i64_quiet | apply tcg_gen_ext16s_i64_quiet
    | apply tcg_gen_ext32s_i64_quiet | apply tcg_gen_ext8u_i64_quiet
    | apply tcg_gen_ext16u_i64_quiet | apply tcg_gen_ext32u_i64_quiet | apply quiet_bind
    | apply quiet_ite | apply quiet_dite | intro _ | dsimp only [])
                  | decide | split)

theorem gen_helper_exit_atomic_quiet  :
    Quiet (gen_helper_exit_atomic ) := by
  unfold gen_helper_exit_atomic
  repeat' (first | with_reducible (first
    | exact quiet_pure _ | exact quiet_abort | exact quiet_assert _
    | exact quiet_emit _ _ (by assumption) | exact quiet_emit _ _ (by decide)
    | exact quiet_new_i32 | exact quiet_cflags | apply tcg_gen_callN_quiet | apply quiet_bind
    | apply quiet_ite | apply quiet_dite | intro _ | dsimp only [])
                  | decide | split)

theorem tcg_gen_mov2_i32_quiet (r a b : TCGv_i32) :
    Quiet (tcg_gen_mov2_i32 r a b) := by
  unfold tcg_gen_mov2_i32
  repeat' (first | with_reducible (first
    | exact quiet_pure _ | exact quiet_abort | exact quiet_assert _
    | exact quiet_emit _ _ (by assumption) | exact quiet_emit _ _ (by decide)
    | exact quiet_new_i32 | exact quiet_cflags | apply tcg_gen_mov_i32_quiet | apply quiet_bind
    | apply quiet_ite | apply quiet_dite | intro _ | dsimp only [])
                  | decide | split)

theorem AtomicName.OP_i32_quiet (T : TCGTarget) (NAME : AtomicName) (a b c : Nat) :
    Quiet (NAME.OP_i32 T a b c) := by
  cases NAME
  all_goals simp only [AtomicName.OP_i32]
  all_goals with_reducible first
    | exact tcg_gen_add_i32_quiet _ _ _ | exact tcg_gen_and_i32_quiet _ _ _
    | exact tcg_gen_or_i32_quiet _ _ _ | exact tcg_gen_xor_i32_quiet _ _ _
    | exact tcg_gen_smin_i32_quiet T _ _ _ | exact tcg_gen_umin_i32_quiet T _ _ _
    | exact tcg_gen_smax_i32_quiet T _ _ _ | exact tcg_gen_umax_i32_quiet T _ _ _
    | exact tcg_gen_mov2_i32_quiet _ _ _

theorem tcg_gen_mov2_i64_quiet (T : TCGTarget) (r a b : TCGv_i64) :
    Quiet (tcg_gen_mov2_i64 T r a b) := by
  unfold tcg_gen_mov2_i64
  repeat' (first | with_reducible (first
    | exact quiet_pure _ | exact quiet_abort | exact quiet_assert _
    | exact quiet_emit _ _ (by assumption) | exact quiet_emit _ _ (by decide)
    | exact quiet_new_i32 | exact quiet_cflags | apply tcg_gen_mov_i64_quiet | apply quiet_bind
    | apply quiet_ite | apply quiet_dite | intro _ | dsimp only [])
                  | decide | split)

theorem AtomicName.OP_i64_quiet (T : TCGTarget) (NAME : AtomicName) (a b c : Nat) :
    Quiet (NAME.OP_i64 T a b c) := by
  cases NAME
  all_goals simp only [AtomicName.OP_i64]
  all_goals with_reducible first
    | exact tcg_gen_add_i64_quiet T _ _ _ | exact tcg_gen_and_i64_quiet T _ _ _
    | exact tcg_gen_or_i64_quiet T _ _ _ | exact tcg_gen_xor_i64_quiet T _ _ _
    | exact tcg_gen_smin_i64_quiet T _ _ _ | exact tcg_gen_umin_i64_quiet T _ _ _
    | exact tcg_gen_smax_i64_quiet T _ _ _ | exact tcg_gen_umax_i64_quiet T _ _ _
    | exact tcg_gen_mov2_i64_quiet T _ _ _

theorem Gen.bind_assoc {α β γ : Type} (x : Gen α) (f : α → Gen β) (g : β → Gen γ) :
    (x >>= f) >>= g = x >>= fun a => f a >>= g := by
  funext s
  simp only [Gen.bind_apply]
  rcases x s with ⟨_ | a, s'⟩
  · rfl
  · simp only [Gen.andThen_some, Gen.bind_apply]

theorem Gen.pure_bind {α β : Type} (a : α) (f : α → Gen β) : (pure a : Gen α) >>= f = f a := by
  funext s
  rfl

theorem Gen.ite_bind {α β : Type} (c : Prop) [Decidable c] (x y : Gen α) (f : α → Gen β) :
    (if c then x else y) >>= f = if c then x >>= f else y >>= f := by
  split <;> rfl

/-- A step that returns the value `a` and leaves the context alone. -/
theorem Sem.bind_val {α : Type} {g : Gen α} {k : α → Gen Unit} {n : Nat}
    {F : Machine → Machine} (a : α) (hg : ∀ s, g s = (some a, s)) (hk : Sem (k a) n F) :
    Sem (g >>= k) n F := by
  refine ⟨hk.1, fun s hs => ?_⟩
  rw [Gen.bind_apply, hg s, Gen.andThen_some]
  exact hk.2 s hs

theorem tcg_gen_req_mo_sem (T : TCGTarget) (type n : Nat) : Sem (tcg_gen_req_mo T type) n id := by
  refine ⟨Local.id n, fun s hs => ?_⟩
  rw [tcg_gen_req_mo_eq]
  split
  · exact ⟨[⟨.mb, [req_mo_mask T type ||| TCG_BAR_SC]⟩], 0, by simp [TCGContext.extend],
      fun m => Agree.refl _ _⟩
  · exact ⟨[], 0, by simp [TCGContext.extend], fun m => Agree.refl _ _⟩

theorem trace_guest_mem_before_tcg_sem (T : TCGTarget) (addr info n : Nat) :
    Sem (trace_guest_mem_before_tcg T addr info) n id := by
  unfold trace_guest_mem_before_tcg
  apply Sem.ite
  · refine Sem.const_id info (fun t ht => ?_)
    exact Sem.bind_id (Sem.call_id _ _ _ (fun _ => rfl)) (Sem.pure _)
  · exact Sem.pure n

theorem gen_rvfi_dii_set_field_sem (T : TCGTarget) (field : RvfiField) (arg n : Nat) :
    Sem (gen_rvfi_dii_set_field T field arg) n id := by
  unfold gen_rvfi_dii_set_field
  apply Sem.ite
  · exact Sem.call_id _ _ _ (fun _ => rfl)
  · exact Sem.pure n

theorem gen_rvfi_dii_set_field_const_i32_sem (T : TCGTarget) (field : RvfiField) (c n : Nat) :
    Sem (gen_rvfi_dii_set_field_const_i32 T field c) n id := by
  unfold gen_rvfi_dii_set_field_const_i32
  apply Sem.ite
  · exact Sem.call_id _ _ _ (fun _ => rfl)
  · exact Sem.pure n

theorem plugin_gen_mem_callbacks_sem (T : TCGTarget) (vaddr info n : Nat) :
    Sem (plugin_gen_mem_callbacks T vaddr info) n id := by
  unfold plugin_gen_mem_callbacks plugin_gen_empty_mem_callback
  apply Sem.ite
  · exact Sem.call_id _ _ _ (fun _ => rfl)
  · exact Sem.pure n

theorem make_memop_idx_shift (memop idx : Nat) (h : idx < 16) :
    make_memop_idx memop idx >>> 4 = memop := by
  unfold make_memop_idx
  apply Nat.eq_of_testBit_eq; intro i
  rw [Nat.testBit_shiftRight, Nat.testBit_or, Nat.testBit_shiftLeft]
  have : idx.testBit (4 + i) = false :=
    Nat.testBit_lt_two_pow (lt_of_lt_of_le h (Nat.pow_le_pow_right (show 0 < 2 by norm_num)
      (show 4 ≤ 4 + i by omega)))
  rw [this]
  simp

theorem addr_val_long64 {T : TCGTarget} (h : T.target_long64 = true) (m : Machine) (a : Nat) :
    T.addr_val m a = m.get64 T a := by
  unfold TCGTarget.addr_val Machine.get64
  cases hT : T.reg64 <;> simp [h, hT]

theorem addr_val_long32 {T : TCGTarget} (h : T.target_long64 = false) (m : Machine) (a : Nat) :
    T.addr_val m a = m.regs a % 2 ^ 64 := by
  unfold TCGTarget.addr_val
  simp [h]

theorem aw_pos (T : TCGTarget) : 1 ≤ T.aw := by
  unfold TCGTarget.aw
  have := w64_pos T
  split <;> omega

theorem Agree.addr_val (T : TCGTarget) {n : Nat} {m m' : Machine} (h : Agree n m m') {a : Nat}
    (ha : a + T.aw ≤ n) : T.addr_val m a = T.addr_val m' a := by
  have hw := w64_pos T
  cases hl : T.target_long64
  · rw [addr_val_long32 hl, addr_val_long32 hl, h.2 a (by have := aw_pos T; omega)]
  · rw [addr_val_long64 hl, addr_val_long64 hl]
    exact h.get64 T (by simpa [TCGTarget.aw, hl] using ha)

theorem Agree.ea (T : TCGTarget) {n : Nat} {m m' : Machine} (h : Agree n m m') {a : Nat}
    (ha : a + T.aw ≤ n) : T.ea m a = T.ea m' a := by
  unfold TCGTarget.ea
  rw [h.addr_val T ha, h.2 a (by have := aw_pos T; omega)]

theorem mem_ld_lt (w : Nat) (mem : Nat → Nat) (ea memop : Nat) : mem_ld w mem ea memop < 2 ^ w :=
  Nat.mod_lt _ (Nat.two_pow_pos w)

theorem exec_ld_i32_3 (val addr oi : Nat) (m : Machine) :
    exec_op ⟨.qemu_ld_i32, [val, addr, oi]⟩ m =
      m.set val (mem_ld 32 m.mem (m.regs addr % 2 ^ 64) (oi >>> 4)) := rfl

theorem exec_ld_i32_4 (val lo hi oi : Nat) (m : Machine) :
    exec_op ⟨.qemu_ld_i32, [val, lo, hi, oi]⟩ m =
      m.set val (mem_ld 32 m.mem (pair64 (m.regs lo) (m.regs hi)) (oi >>> 4)) := rfl

theorem gen_ldst_i32_ld_sem (T : TCGTarget) {val addr n : Nat} (memop idx : Nat)
    (hidx : idx < 16) (ha : addr + T.aw ≤ n) :
    Sem (gen_ldst_i32 T .qemu_ld_i32 val addr memop idx) n
      (fun m => m.set val (mem_ld 32 m.mem (T.addr_val m addr) memop)) := by
  have hL : Local n (fun m : Machine => m.set val (mem_ld 32 m.mem (T.addr_val m addr) memop)) :=
    Local.set_of val (fun m m' h => by rw [h.1, h.addr_val T ha])
  have hs := make_memop_idx_shift memop idx hidx
  unfold gen_ldst_i32
  cases hl : T.target_long64
  · simp only [Bool.false_eq_true, not_false_eq_true, if_true]
    have e : exec_op ⟨.qemu_ld_i32, [val, addr, make_memop_idx memop idx]⟩ = fun m : Machine =>
        m.set val (mem_ld 32 m.mem (T.addr_val m addr) memop) := by
      funext m
      rw [addr_val_long32 hl, exec_ld_i32_3, hs]
    unfold tcg_gen_op3
    rw [← e]
    exact Sem.emit _ _ _ (e ▸ hL)
  · cases hT : T.reg64
    · simp only [Bool.false_eq_true, not_false_eq_true, not_true_eq_false, if_true, if_false]
      have e : exec_op ⟨.qemu_ld_i32, [val, TCGV_LOW addr, TCGV_HIGH addr,
          make_memop_idx memop idx]⟩ = fun m : Machine =>
          m.set val (mem_ld 32 m.mem (T.addr_val m addr) memop) := by
        funext m
        rw [addr_val_long64 hl, Machine.get64_of_reg32 hT, exec_ld_i32_4, hs]
        rfl
      unfold tcg_gen_op4
      rw [← e]
      exact Sem.emit _ _ _ (e ▸ hL)
    · simp only [not_true_eq_false, if_false]
      have e : exec_op ⟨.qemu_ld_i32, [val, addr, make_memop_idx memop idx]⟩ = fun m : Machine =>
          m.set val (mem_ld 32 m.mem (T.addr_val m addr) memop) := by
        funext m
        rw [addr_val_long64 hl, Machine.get64_of_reg64 hT, exec_ld_i32_3, hs]
      unfold tcg_gen_op3
      rw [← e]
      exact Sem.emit _ _ _ (e ▸ hL)

theorem exec_st_i32_3 (val addr oi : Nat) (m : Machine) :
    exec_op ⟨.qemu_st_i32, [val, addr, oi]⟩ m =
      { m with mem := mem_st m.mem (m.regs addr % 2 ^ 64) (oi >>> 4) (m.regs val % 2 ^ 32) } :=
  rfl

theorem exec_st_i32_4 (val lo hi oi : Nat) (m : Machine) :
    exec_op ⟨.qemu_st_i32, [val, lo, hi, oi]⟩ m =
      { m with mem := (mem_st m.mem (pair64 (m.regs lo) (m.regs hi)) (oi >>> 4)
          (m.regs val % 2 ^ 32)) } := rfl

theorem exec_ld_i64_3 (val addr oi : Nat) (m : Machine) :
    exec_op ⟨.qemu_ld_i64, [val, addr, oi]⟩ m =
      m.set val (mem_ld 64 m.mem (m.regs addr % 2 ^ 64) (oi >>> 4)) := rfl

theorem exec_ld_i64_4 (lo hi addr oi : Nat) (m : Machine) :
    exec_op ⟨.qemu_ld_i64, [lo, hi, addr, oi]⟩ m =
      m.setPair lo hi (mem_ld 64 m.mem (m.regs addr % 2 ^ 64) (oi >>> 4)) := rfl

theorem exec_ld_i64_5 (lo hi alo ahi oi : Nat) (m : Machine) :
    exec_op ⟨.qemu_ld_i64, [lo, hi, alo, ahi, oi]⟩ m =
      m.setPair lo hi (mem_ld 64 m.mem (pair64 (m.regs alo) (m.regs ahi)) (oi >>> 4)) := rfl

theorem exec_st_i64_3 (val addr oi : Nat) (m : Machine) :
    exec_op ⟨.qemu_st_i64, [val, addr, oi]⟩ m =
      { m with mem := mem_st m.mem (m.regs addr % 2 ^ 64) (oi >>> 4) (m.regs val % 2 ^ 64) } :=
  rfl

theorem exec_st_i64_4 (lo hi addr oi : Nat) (m : Machine) :
    exec_op ⟨.qemu_st_i64, [lo, hi, addr, oi]⟩ m =
      { m with mem := (mem_st m.mem (m.regs addr % 2 ^ 64) (oi >>> 4)
          (pair64 (m.regs lo) (m.regs hi))) } := rfl

theorem exec_st_i64_5 (lo hi alo ahi oi : Nat) (m : Machine) :
    exec_op ⟨.qemu_st_i64, [lo, hi, alo, ahi, oi]⟩ m =
      { m with mem := (mem_st m.mem (pair64 (m.regs alo) (m.regs ahi)) (oi >>> 4)
          (pair64 (m.regs lo) (m.regs hi))) } := rfl

theorem gen_ldst_i32_st_sem (T : TCGTarget) {val addr n : Nat} (memop idx : Nat)
    (hidx : idx < 16) (ha : addr + T.aw ≤ n) (hv : val < n) :
    Sem (gen_ldst_i32 T .qemu_st_i32 val addr memop idx) n
      (fun m => { m with mem := mem_st m.mem (T.addr_val m addr) memop (m.regs val % 2 ^ 32) }) := by
  have hL : Local n (fun m : Machine =>
      { m with mem := mem_st m.mem (T.addr_val m addr) memop (m.regs val % 2 ^ 32) }) := by
    intro N hN m m' h
    refine ⟨?_, h.2⟩
    show mem_st m.mem (T.addr_val m addr) memop (m.regs val % 2 ^ 32) =
      mem_st m'.mem (T.addr_val m' addr) memop (m'.regs val % 2 ^ 32)
    rw [h.1, (h.mono hN).addr_val T ha, h.2 val (by omega)]
  have hs := make_memop_idx_shift memop idx hidx
  unfold gen_ldst_i32
  cases hl : T.target_long64
  · simp only [Bool.false_eq_true, not_false_eq_true, if_true]
    have e : exec_op ⟨.qemu_st_i32, [val, addr, make_memop_idx memop idx]⟩ = fun m : Machine =>
        { m with mem := mem_st m.mem (T.addr_val m addr) memop (m.regs val % 2 ^ 32) } := by
      funext m
      rw [addr_val_long32 hl, exec_st_i32_3, hs]
    unfold tcg_gen_op3
    rw [← e]
    exact Sem.emit _ _ _ (e ▸ hL)
  · cases hT : T.reg64
    · simp only [Bool.false_eq_true, not_false_eq_true, not_true_eq_false, if_true, if_false]
      have e : exec_op ⟨.qemu_st_i32, [val, TCGV_LOW addr, TCGV_HIGH addr,
          make_memop_idx memop idx]⟩ = fun m : Machine =>
          { m with mem := mem_st m.mem (T.addr_val m addr) memop (m.regs val % 2 ^ 32) } := by
        funext m
        rw [addr_val_long64 hl, Machine.get64_of_reg32 hT, exec_st_i32_4, hs]
        rfl
      unfold tcg_gen_op4
      rw [← e]
      exact Sem.emit _ _ _ (e ▸ hL)
    · simp only [not_true_eq_false, if_false]
      have e : exec_op ⟨.qemu_st_i32, [val, addr, make_memop_idx memop idx]⟩ = fun m : Machine =>
          { m with mem := mem_st m.mem (T.addr_val m addr) memop (m.regs val % 2 ^ 32) } := by
        funext m
        rw [addr_val_long64 hl, Machine.get64_of_reg64 hT, exec_st_i32_3, hs]
      unfold tcg_gen_op3
      rw [← e]
      exact Sem.emit _ _ _ (e ▸ hL)

theorem gen_ldst_i64_ld_sem (T : TCGTarget) {val addr n : Nat} (memop idx : Nat)
    (hidx : idx < 16) (ha : addr + T.aw ≤ n) :
    Sem (gen_ldst_i64 T .qemu_ld_i64 val addr memop idx) n
      (fun m => m.set64 T val (mem_ld 64 m.mem (T.addr_val m addr) memop)) := by
  have hL : Local n (fun m : Machine =>
      m.set64 T val (mem_ld 64 m.mem (T.addr_val m addr) memop)) := by
    intro N hN m m' h
    show Agree N (Machine.set64 T m val _) (Machine.set64 T m' val _)
    rw [h.1, (h.mono hN).addr_val T ha]
    exact h.set64 T val rfl
  have hs := make_memop_idx_shift memop idx hidx
  unfold gen_ldst_i64
  cases hl : T.target_long64 <;> cases hT : T.reg64
  · simp only [Bool.false_eq_true, not_false_eq_true, if_true]
    have e : exec_op ⟨.qemu_ld_i64, [TCGV_LOW val, TCGV_HIGH val, addr,
        make_memop_idx memop idx]⟩ = fun m : Machine =>
        m.set64 T val (mem_ld 64 m.mem (T.addr_val m addr) memop) := by
      funext m
      rw [addr_val_long32 hl, exec_ld_i64_4, hs, Machine.set64_of_reg32 hT]
      rfl
    unfold tcg_gen_op4
    rw [← e]
    exact Sem.emit _ _ _ (e ▸ hL)
  · simp only [Bool.false_eq_true, not_false_eq_true, not_true_eq_false, if_true, if_false]
    have e : exec_op ⟨.qemu_ld_i64, [val, addr, make_memop_idx memop idx]⟩ = fun m : Machine =>
        m.set64 T val (mem_ld 64 m.mem (T.addr_val m addr) memop) := by
      funext m
      rw [addr_val_long32 hl, exec_ld_i64_3, hs, Machine.set64_of_reg64 hT,
        Nat.mod_eq_of_lt (mem_ld_lt 64 _ _ _)]
    unfold tcg_gen_op3
    rw [← e]
    exact Sem.emit _ _ _ (e ▸ hL)
  · simp only [Bool.false_eq_true, not_false_eq_true, not_true_eq_false, if_true, if_false]
    have e : exec_op ⟨.qemu_ld_i64, [TCGV_LOW val, TCGV_HIGH val, TCGV_LOW addr, TCGV_HIGH addr,
        make_memop_idx memop idx]⟩ = fun m : Machine =>
        m.set64 T val (mem_ld 64 m.mem (T.addr_val m addr) memop) := by
      funext m
      rw [addr_val_long64 hl, Machine.get64_of_reg32 hT, exec_ld_i64_5, hs,
        Machine.set64_of_reg32 hT]
      rfl
    unfold tcg_gen_op5
    rw [← e]
    exact Sem.emit _ _ _ (e ▸ hL)
  · simp only [not_true_eq_false, if_false]
    have e : exec_op ⟨.qemu_ld_i64, [val, addr, make_memop_idx memop idx]⟩ = fun m : Machine =>
        m.set64 T val (mem_ld 64 m.mem (T.addr_val m addr) memop) := by
      funext m
      rw [addr_val_long64 hl, Machine.get64_of_reg64 hT, exec_ld_i64_3, hs,
        Machine.set64_of_reg64 hT, Nat.mod_eq_of_lt (mem_ld_lt 64 _ _ _)]
    unfold tcg_gen_op3
    rw [← e]
    exact Sem.emit _ _ _ (e ▸ hL)

theorem gen_ldst_i64_st_sem (T : TCGTarget) {val addr n : Nat} (memop idx : Nat)
    (hidx : idx < 16) (ha : addr + T.aw ≤ n) (hv : val + T.w64 ≤ n) :
    Sem (gen_ldst_i64 T .qemu_st_i64 val addr memop idx) n
      (fun m => { m with mem := mem_st m.mem (T.addr_val m addr) memop (m.get64 T val) }) := by
  have hL : Local n (fun m : Machine =>
      { m with mem := mem_st m.mem (T.addr_val m addr) memop (m.get64 T val) }) := by
    intro N hN m m' h
    refine ⟨?_, h.2⟩
    show mem_st m.mem (T.addr_val m addr) memop (m.get64 T val) =
      mem_st m'.mem (T.addr_val m' addr) memop (m'.get64 T val)
    rw [h.1, (h.mono hN).addr_val T ha, (h.mono hN).get64 T hv]
  have hs := make_memop_idx_shift memop idx hidx
  unfold gen_ldst_i64
  cases hl : T.target_long64 <;> cases hT : T.reg64
  · simp only [Bool.false_eq_true, not_false_eq_true, if_true]
    have e : exec_op ⟨.qemu_st_i64, [TCGV_LOW val, TCGV_HIGH val, addr,
        make_memop_idx memop idx]⟩ = fun m : Machine =>
        { m with mem := mem_st m.mem (T.addr_val m addr) memop (m.get64 T val) } := by
      funext m
      rw [addr_val_long32 hl, exec_st_i64_4, hs, Machine.get64_of_reg32 hT]
      rfl
    unfold tcg_gen_op4
    rw [← e]
    exact Sem.emit _ _ _ (e ▸ hL)
  · simp only [Bool.false_eq_true, not_false_eq_true, not_true_eq_false, if_true, if_false]
    have e : exec_op ⟨.qemu_st_i64, [val, addr, make_memop_idx memop idx]⟩ = fun m : Machine =>
        { m with mem := mem_st m.mem (T.addr_val m addr) memop (m.get64 T val) } := by
      funext m
      rw [addr_val_long32 hl, exec_st_i64_3, hs, Machine.get64_of_reg64 hT]
    unfold tcg_gen_op3
    rw [← e]
    exact Sem.emit _ _ _ (e ▸ hL)
  · simp only [Bool.false_eq_true, not_false_eq_true, not_true_eq_false, if_true, if_false]
    have e : exec_op ⟨.qemu_st_i64, [TCGV_LOW val, TCGV_HIGH val, TCGV_LOW addr, TCGV_HIGH addr,
        make_memop_idx memop idx]⟩ = fun m : Machine =>
        { m with mem := mem_st m.mem (T.addr_val m addr) memop (m.get64 T val) } := by
      funext m
      rw [addr_val_long64 hl, Machine.get64_of_reg32 hT, exec_st_i64_5, hs,
        Machine.get64_of_reg32 hT]
      rfl
    unfold tcg_gen_op5
    rw [← e]
    exact Sem.emit _ _ _ (e ▸ hL)
  · simp only [not_true_eq_false, if_false]
    have e : exec_op ⟨.qemu_st_i64, [val, addr, make_memop_idx memop idx]⟩ = fun m : Machine =>
        { m with mem := mem_st m.mem (T.addr_val m addr) memop (m.get64 T val) } := by
      funext m
      rw [addr_val_long64 hl, Machine.get64_of_reg64 hT, exec_st_i64_3, hs,
        Machine.get64_of_reg64 hT]
    unfold tcg_gen_op3
    rw [← e]
    exact Sem.emit _ _ _ (e ▸ hL)

theorem ea_no_plugin {T : TCGTarget} (h : T.plugin_insn = false) (m : Machine) (a : Nat) :
    T.ea m a = T.addr_val m a := by
  unfold TCGTarget.ea
  simp [h]

theorem ea_long64 {T : TCGTarget} (h : T.target_long64 = true) (m : Machine) (a : Nat) :
    T.ea m a = T.addr_val m a := by
  unfold TCGTarget.ea
  simp [h]

/-- The address copy made for the plugin instrumentation: the rest of the
routine sees a temporary that holds the guest address. -/
theorem Sem.plugin_prep (T : TCGTarget) {k : TCGv → Gen Unit} {n addr : Nat}
    {G : Nat → Machine → Machine} (ha : addr + T.aw ≤ n) (hG : ∀ x, Local n (G x))
    (hk : ∀ N a, n ≤ N → a + T.aw ≤ N → Sem (k a) N (fun m => G (T.addr_val m a) m)) :
    Sem (plugin_prep_mem_callbacks T addr >>= k) n (fun m => G (T.ea m addr) m) := by
  have hw1 := w64_pos T
  have haw := aw_pos T
  have hL : Local n (fun m => G (T.ea m addr) m) := by
    intro N hN m m' h
    show Agree N (G (T.ea m addr) m) (G (T.ea m' addr) m')
    rw [(h.mono hN).ea T ha]
    exact hG _ N hN m m' h
  unfold plugin_prep_mem_callbacks
  cases hp : T.plugin_insn
  · simp only [Bool.false_eq_true, if_false, Gen.pure_bind]
    refine (hk n addr (le_refl _) ha).conseq (fun N _ m => ?_)
    rw [ea_no_plugin hp]
    exact Agree.refl _ _
  · simp only [if_true, Gen.bind_assoc, Gen.pure_bind]
    unfold tcg_temp_new_cap_checked tcg_gen_mov_tl
    cases hl : T.target_long64
    · have hawl : T.aw = 1 := by simp [TCGTarget.aw, hl]
      simp only [Bool.false_eq_true, if_false]
      refine Sem.new hL (fun t ht => Sem.bind (tcg_gen_mov_i32_sem (r := t) (a := addr) (by omega))
        (hk (t + 1) t (by omega) (by omega))) (fun t ht m => ?_)
      simp only [Function.comp]
      have e : T.addr_val (m.set t (m.regs addr % 2 ^ 32)) t = T.ea m addr := by
        rw [addr_val_long32 hl]
        unfold TCGTarget.ea
        simp only [hl, hp, Bool.false_eq_true, not_false_eq_true, and_self, if_true,
          Machine.set_regs_self]
        omega
      rw [e]
      exact hG _ t ht _ _ ⟨rfl, fun i hi => Machine.set_regs_ne _ _ (by omega)⟩
    · have hawl : T.aw = T.w64 := by simp [TCGTarget.aw, hl]
      simp only [if_true]
      refine Sem.new64 T (fun t ht => Sem.bind
        (tcg_gen_mov_i64_sem T (r := t) (a := addr) (by omega) (by omega))
        (hk (t + T.w64) t (by omega) (by omega))) (fun t ht m => ?_) hL
      simp only [Function.comp]
      have e : T.addr_val (m.set64 T t (m.get64 T addr)) t = T.ea m addr := by
        rw [addr_val_long64 hl, ea_long64 hl, addr_val_long64 hl, Machine.get64_set64_self,
          Nat.mod_eq_of_lt (Machine.get64_lt T m addr)]
      rw [e]
      exact hG _ t ht _ _ ⟨by simp, fun i hi => Machine.set64_regs_ne T _ _ (by omega)⟩

/-- The copy of the address kept for the instruction log: the rest of the
routine does not depend on which temporary holds it. -/
theorem saved_addr_sem (T : TCGTarget) {k : TCGv → Gen Unit} {n addr val : Nat}
    {F : Machine → Machine} (c : Prop) [Decidable c] (ha : addr + T.aw ≤ n)
    (hk : ∀ N sv, n ≤ N → Sem (k sv) N F) :
    Sem ((if c then
        (if addr = val then (do
          let saved ← tcg_temp_new_cap_checked T
          tcg_gen_mov_tl T saved addr
          pure saved) else pure addr)
      else pure addr) >>= k) n F := by
  have hw1 := w64_pos T
  have haw := aw_pos T
  have hL := (hk n addr (le_refl _)).1
  split_ifs
  · simp only [Gen.bind_assoc, Gen.pure_bind]
    unfold tcg_temp_new_cap_checked tcg_gen_mov_tl
    cases hl : T.target_long64
    · have hawl : T.aw = 1 := by simp [TCGTarget.aw, hl]
      simp only [Bool.false_eq_true, if_false]
      refine Sem.new hL (fun t ht => Sem.bind (tcg_gen_mov_i32_sem (r := t) (a := addr) (by omega))
        (hk (t + 1) t (by omega))) (fun t ht m => ?_)
      exact hL t ht _ _ ⟨rfl, fun i hi => Machine.set_regs_ne _ _ (by omega)⟩
    · have hawl : T.aw = T.w64 := by simp [TCGTarget.aw, hl]
      simp only [if_true]
      refine Sem.new64 T (fun t ht => Sem.bind
        (tcg_gen_mov_i64_sem T (r := t) (a := addr) (by omega) (by omega))
        (hk (t + T.w64) t (by omega))) (fun t ht m => ?_) hL
      exact hL t ht _ _ ⟨by simp, fun i hi => Machine.set64_regs_ne T _ _ (by omega)⟩
  · rw [Gen.pure_bind]
    exact hk n addr (le_refl _)
  · rw [Gen.pure_bind]
    exact hk n addr (le_refl _)

theorem log_instr_sem (T : TCGTarget) (h : Helper) (sv val d n : Nat)
    (hh : ∀ args m, exec_op ⟨.call, h.toCtorIdx :: args⟩ m = m) :
    Sem (if T.CONFIG_TCG_LOG_INSTR = true then
        (tcg_const_i32 d >>= fun tcop =>
          if T.tcg_ctx_logging_enabled = true then
            (tcg_gen_callN h [sv, val, tcop] >>= fun _ => tcg_temp_free_i32 tcop)
          else ((pure PUnit.unit : Gen PUnit) >>= fun _ => tcg_temp_free_i32 tcop))
      else pure PUnit.unit) n id := by
  apply Sem.ite
  · refine Sem.const_id d (fun t ht => ?_)
    apply Sem.ite
    · exact Sem.bind_id (Sem.call_id _ _ _ (hh _)) (Sem.pure _)
    · exact Sem.bind_id (Sem.pure _) (Sem.pure _)
  · exact Sem.pure n

theorem and_MO_SIZE (x : Nat) : x &&& MO_SIZE = x % 4 :=
  Nat.and_pow_two_sub_one_eq_mod x 2

theorem and_MO_SSIZE (x : Nat) : x &&& MO_SSIZE = x % 8 :=
  Nat.and_pow_two_sub_one_eq_mod x 3

theorem and_MO_SIGN (x : Nat) : x &&& MO_SIGN = 4 * (x / 4 % 2) := by
  apply Nat.eq_of_testBit_eq; intro i
  rw [Nat.testBit_and, show MO_SIGN = 2 ^ 2 from rfl, Nat.testBit_two_pow,
    show (4 : Nat) = 2 ^ 2 from rfl, Nat.testBit_mul_pow_two]
  by_cases h : i = 2
  · subst h
    simp [Nat.testBit_to_div_mod]
  · have h' : ¬ 2 = i := fun e => h e.symm
    simp only [h', decide_False, Bool.and_false]
    rcases Nat.lt_or_ge i 2 with h2 | h2
    · simp [h2, Nat.not_le.mpr h2]
    · have : (x / 2 ^ 2 % 2).testBit (i - 2) = false :=
        Nat.testBit_lt_two_pow (lt_of_lt_of_le (Nat.mod_lt _ (by norm_num))
          (Nat.pow_le_pow_right (show 0 < 2 by norm_num) (show 1 ≤ i - 2 by omega)))
      simp only [show (2 : Nat) ^ 2 = 4 from rfl] at this
      simp [this]

theorem memop_ssize_sw (x : Nat) :
    x &&& MO_SSIZE = MO_SW ↔ (x &&& MO_SIZE = MO_16 ∧ x &&& MO_SIGN ≠ 0) := by
  rw [and_MO_SSIZE, and_MO_SIZE, and_MO_SIGN, show MO_SW = 5 from rfl, show MO_16 = 1 from rfl]
  omega

theorem and_bnot_bswap_ssize (x : Nat) :
    (x &&& bnot 32 MO_BSWAP) &&& MO_SSIZE = x &&& MO_SSIZE :=
  and_bnot_and_other _ _ _ (by decide) (by decide)

theorem mem_ld_unsigned (w : Nat) (mem : Nat → Nat) (x d : Nat) (hb : d &&& MO_BSWAP = 0)
    (hs : d &&& MO_SIGN = 0) :
    mem_ld w mem x d = ldn mem x (2 ^ (d &&& MO_SIZE)) % 2 ^ w := by
  unfold mem_ld
  simp [hb, hs]

/-- A byte-swapped 16-bit load is the byte swap, then the sign extension if the
`MemOp` is signed, of the unsigned load in host order. -/
theorem mem_ld_swap16 (mem : Nat → Nat) (x c d : Nat) (hsz : c &&& MO_SIZE = MO_16)
    (hcb : c &&& MO_BSWAP ≠ 0) (hd : d &&& MO_SIZE = c &&& MO_SIZE) (hb : d &&& MO_BSWAP = 0)
    (hs : d &&& MO_SIGN = 0) :
    mem_ld 32 mem x d < 2 ^ 16 ∧
    mem_ld 32 mem x c =
      (if c &&& MO_SIGN ≠ 0 then sext 32 16 (bswap16 (mem_ld 32 mem x d))
       else bswap16 (mem_ld 32 mem x d)) := by
  have hr : ldn mem x 2 < 2 ^ 16 := ldn_lt mem x 2
  rw [mem_ld_unsigned 32 mem x d hb hs, hd, hsz, show (2 : Nat) ^ MO_16 = 2 from rfl,
    Nat.mod_eq_of_lt (lt_trans hr (by norm_num))]
  refine ⟨hr, ?_⟩
  unfold mem_ld
  simp only [hsz, hcb, ne_eq, not_false_eq_true, if_true, show (2 : Nat) ^ MO_16 = 2 from rfl,
    show bswap_size MO_16 (ldn mem x 2) = bswap16 (ldn mem x 2) from rfl]
  split
  · exact Nat.mod_eq_of_lt (sext_lt 32 16 _ (by norm_num))
  · exact Nat.mod_eq_of_lt (lt_trans (bswap16_lt _) (by norm_num))

theorem mem_ld_swap32 (mem : Nat → Nat) (x c d : Nat) (hsz : c &&& MO_SIZE = MO_32)
    (hcb : c &&& MO_BSWAP ≠ 0) (hcs : c &&& MO_SIGN = 0) (hd : d &&& MO_SIZE = c &&& MO_SIZE)
    (hb : d &&& MO_BSWAP = 0) (hs : d &&& MO_SIGN = 0) :
    mem_ld 32 mem x c = bswap32 (mem_ld 32 mem x d) := by
  have hr : ldn mem x 4 < 2 ^ 32 := ldn_lt mem x 4
  rw [mem_ld_unsigned 32 mem x d hb hs, hd, hsz, show (2 : Nat) ^ MO_32 = 4 from rfl,
    Nat.mod_eq_of_lt hr]
  unfold mem_ld
  simp only [hsz, hcb, hcs, ne_eq, not_false_eq_true, not_true_eq_false, if_true, if_false,
    show (2 : Nat) ^ MO_32 = 4 from rfl,
    show bswap_size MO_32 (ldn mem x 4) = bswap32 (ldn mem x 4) from rfl]
  exact Nat.mod_eq_of_lt (bswap32_lt _)

/-- What a `MemOp` canonicalized for a load into a 32-bit container looks like. -/
theorem canonical_ld_i32_facts (T : TCGTarget) (memop c : Nat) (s : TCGContext)
    (hc : tcg_canonicalize_memop T memop false false s = (some c, s)) :
    (c &&& MO_SIZE = MO_8 → c &&& MO_BSWAP = 0) ∧ c &&& MO_SIZE ≠ MO_64 ∧
    (c &&& MO_SIZE = MO_32 → c &&& MO_SIGN = 0) := by
  obtain ⟨_, _, h64, e⟩ := tcg_canonicalize_memop_some T memop false false s s c hc
  have h64 := h64 rfl
  obtain ⟨f1, f2, f3, f4, f5, f6, _, _⟩ := memop_clear_facts memop
  simp only [Bool.false_eq_true, if_false, and_true] at e
  by_cases h8 : memop &&& MO_SIZE = MO_8
  · rw [if_pos h8] at e
    subst e
    rw [f4, h8]
    exact ⟨fun _ => f2, by decide, fun h => absurd h (by decide)⟩
  · by_cases h32 : memop &&& MO_SIZE = MO_32
    · rw [if_neg h8, if_pos h32] at e
      subst e
      rw [f3, h32]
      exact ⟨fun h => absurd h (by decide), by decide, fun _ => f1⟩
    · rw [if_neg h8, if_neg h32] at e
      subst e
      exact ⟨fun h => absurd h h8, h64, fun h => absurd h h32⟩

theorem Sem.bind_pre {g1 : Gen Unit} {k : Unit → Gen Unit} {n : Nat} {F : Machine → Machine}
    (h1 : Sem g1 n id) (h2 : Sem (k ()) n F) : Sem (g1 >>= k) n F :=
  (Sem.bind h1 h2).conseq (fun _ _ m => Agree.refl _ _)

theorem Sem.bind_post {g1 : Gen Unit} {k : Unit → Gen Unit} {n : Nat} {F : Machine → Machine}
    (h1 : Sem g1 n F) (h2 : Sem (k ()) n id) : Sem (g1 >>= k) n F :=
  (Sem.bind h1 h2).conseq (fun _ _ m => Agree.refl _ _)

/-- A load into `val` followed by code that rewrites `val` from its own value. -/
theorem Sem.ld_then {g : Gen Unit} {k : Unit → Gen Unit} {n val : Nat} {L L' : Machine → Nat}
    {P : Nat → Nat} (hg : Sem g n (fun m => m.set val (L m)))
    (hk : Sem (k ()) n (fun m => m.set val (P (m.regs val))))
    (hP : ∀ m, P (L m) = L' m) : Sem (g >>= k) n (fun m => m.set val (L' m)) := by
  refine (Sem.bind hg hk).conseq (fun N _ m => ?_)
  simp only [Function.comp, Machine.set_regs_self, hP]
  exact Agree.of_set rfl (Machine.set_regs_self _ _ _)
    (fun i _ hne => by rw [Machine.set_regs_ne _ _ hne, Machine.set_regs_ne _ _ hne])

/-- Descriptor handed to the access when a 32-bit load emulates the byte swap. -/
theorem ld_i32_desc_facts (c : Nat) (hb : c &&& MO_BSWAP ≠ 0)
    (hc32 : c &&& MO_SIZE = MO_32 → c &&& MO_SIGN = 0)
    (hsz : c &&& MO_SIZE = MO_16 ∨ c &&& MO_SIZE = MO_32) (D : Nat)
    (hD : (if c &&& bnot 32 MO_BSWAP &&& MO_SSIZE = MO_SW then
        c &&& bnot 32 MO_BSWAP &&& bnot 32 MO_SIGN else c &&& bnot 32 MO_BSWAP) = D) :
    D &&& MO_SIZE = c &&& MO_SIZE ∧ D &&& MO_BSWAP = 0 ∧ D &&& MO_SIGN = 0 ∧
    (c ^^^ D) &&& MO_BSWAP ≠ 0 := by
  obtain ⟨f1, f2, f3, f4, f5, f6, _, _⟩ := memop_clear_facts c
  obtain ⟨g1, g2, g3, g4, g5, g6, _, _⟩ := memop_clear_facts (c &&& bnot 32 MO_BSWAP)
  have key : D &&& MO_SIZE = c &&& MO_SIZE ∧ D &&& MO_BSWAP = 0 ∧ D &&& MO_SIGN = 0 := by
    subst hD
    split
    · exact ⟨by rw [g3, f4], by rw [g5, f2], g1⟩
    · rename_i hn
      refine ⟨f4, f2, ?_⟩
      rw [memop_ssize_sw, f4, f6] at hn
      rw [f6]
      rcases hsz with h | h
      · by_contra hs
        exact hn ⟨h, hs⟩
      · exact hc32 h
  refine ⟨key.1, key.2.1, key.2.2, ?_⟩
  rw [Nat.and_xor_distrib_right, key.2.1, Nat.xor_zero]
  exact hb

/-- A canonical `MemOp` of a 32-bit load that still asks for a byte swap is 16 or 32 bits
wide. -/
theorem canonical_swap_size (c : Nat) (hb : c &&& MO_BSWAP ≠ 0)
    (hc8 : c &&& MO_SIZE = MO_8 → c &&& MO_BSWAP = 0) (hc64 : c &&& MO_SIZE ≠ MO_64) :
    c &&& MO_SIZE = MO_16 ∨ c &&& MO_SIZE = MO_32 := by
  have h0 : c &&& MO_SIZE ≠ MO_8 := fun h => hb (hc8 h)
  rw [and_MO_SIZE] at *
  simp only [show MO_8 = 0 from rfl, show MO_16 = 1 from rfl, show MO_32 = 2 from rfl,
    show MO_64 = 3 from rfl] at *
  omega

theorem tcg_gen_qemu_ld_i32_sem (T : TCGTarget) {val addr n : Nat} (idx memop c : Nat)
    (hidx : idx < 16)
    (hc : ∀ s, tcg_canonicalize_memop T memop false false s = (some c, s))
    (hv : val < n) (ha : addr + T.aw ≤ n) :
    Sem (tcg_gen_qemu_ld_i32_with_checked_addr T val addr idx memop) n
      (fun m => m.set val (mem_ld 32 m.mem (T.ea m addr) c)) := by
  obtain ⟨hc8, hc64, hc32⟩ := canonical_ld_i32_facts T memop c (TCGContext.fresh 0) (hc _)
  obtain ⟨f1, f2, f3, f4, f5, f6, _, _⟩ := memop_clear_facts c
  obtain ⟨g1, g2, g3, g4, g5, g6, _, _⟩ := memop_clear_facts (c &&& bnot 32 MO_BSWAP)
  have hG : ∀ x, Local n (fun m : Machine => m.set val (mem_ld 32 m.mem x c)) := fun x =>
    Local.set_of val (fun m m' h => by rw [h.1])
  unfold tcg_gen_qemu_ld_i32_with_checked_addr
  simp only []
  refine Sem.bind_pre (tcg_gen_req_mo_sem T _ n) (Sem.bind_val c hc
    (Sem.bind_pre (trace_guest_mem_before_tcg_sem T _ _ n)
    (Sem.plugin_prep T (G := fun x m => m.set val (mem_ld 32 m.mem x c)) ha hG
      (fun N a hN haN => saved_addr_sem T _ haN (fun N' sv hN' => ?_)))))
  have hvN : val < N' := by omega
  have haN' : a + T.aw ≤ N' := by omega
  have hlog := fun d => log_instr_sem T .qemu_log_instr_load32 sv val d N' (fun _ _ => rfl)
  by_cases hE : ¬T.TCG_TARGET_HAS_MEMORY_BSWAP = true ∧ c &&& MO_BSWAP ≠ 0
  swap
  · simp only [if_neg hE, Nat.xor_self, Nat.zero_and, ne_eq, not_true_eq_false, if_false]
    exact Sem.bind_pre (gen_rvfi_dii_set_field_sem T _ _ _)
      (Sem.bind_post (gen_ldst_i32_ld_sem T c idx hidx haN')
        (Sem.bind_id (gen_rvfi_dii_set_field_sem T _ _ _)
          (Sem.bind_id (gen_rvfi_dii_set_field_const_i32_sem T _ _ _)
            (Sem.bind_id (plugin_gen_mem_callbacks_sem T _ _ _)
              (Sem.bind_id (Sem.pure _) (hlog _))))))
  simp only [if_pos hE]
  have hsz := canonical_swap_size c hE.2 hc8 hc64
  generalize hD : (if c &&& bnot 32 MO_BSWAP &&& MO_SSIZE = MO_SW then
        c &&& bnot 32 MO_BSWAP &&& bnot 32 MO_SIGN else c &&& bnot 32 MO_BSWAP) = D
  obtain ⟨d1, d2, d3, d4⟩ := ld_i32_desc_facts c hE.2 hc32 hsz D hD
  rw [if_pos d4]
  refine Sem.bind_pre (gen_rvfi_dii_set_field_sem T _ _ _)
      (Sem.ld_then (gen_ldst_i32_ld_sem T D idx hidx haN')
        (P := fun x => if c &&& MO_SIZE = MO_16 then
          (if c &&& MO_SIGN ≠ 0 then
            sext 32 16 (if T.TCG_TARGET_HAS_bswap16_i32 = true then bswap16 (x % 2 ^ 32)
              else ((x % 2 ^ 32) >>> 8) ||| ((x % 2 ^ 8) <<< 8))
           else (if T.TCG_TARGET_HAS_bswap16_i32 = true then bswap16 (x % 2 ^ 32)
              else ((x % 2 ^ 32) >>> 8) ||| ((x % 2 ^ 8) <<< 8)))
          else bswap32 x)
        (Sem.bind_pre (gen_rvfi_dii_set_field_sem T _ _ _)
          (Sem.bind_pre (gen_rvfi_dii_set_field_const_i32_sem T _ _ _)
            (Sem.bind_pre (plugin_gen_mem_callbacks_sem T _ _ _) ?_))) ?_)
  · rcases hsz with h16 | h32
    · simp only [if_pos h16]
      by_cases hs : c &&& MO_SIGN ≠ 0
      · simp only [if_pos hs]
        exact Sem.ld_then (tcg_gen_bswap16_i32_sem T hvN hvN)
          (Sem.bind_post (tcg_gen_ext16s_i32_sem T hvN hvN) (hlog _)) (fun _ => rfl)
      · simp only [if_neg hs]
        exact Sem.bind_post (tcg_gen_bswap16_i32_sem T hvN hvN)
          (Sem.bind_id (Sem.pure _) (hlog _))
    · have h16 : ¬ c &&& MO_SIZE = MO_16 := by rw [h32]; decide
      simp only [if_neg h16, if_pos h32]
      exact Sem.bind_post (tcg_gen_bswap32_i32_sem T hvN hvN) (hlog _)
  · intro m
    rcases hsz with h16 | h32
    · obtain ⟨hlt, e⟩ := mem_ld_swap16 m.mem (T.addr_val m a) c D h16 hE.2 d1 d2 d3
      simp only [if_pos h16, bswap16_path32 _ _ hlt]
      exact e.symm
    · have h16 : ¬ c &&& MO_SIZE = MO_16 := by rw [h32]; decide
      simp only [if_neg h16]
      exact (mem_ld_swap32 m.mem (T.addr_val m a) c D h32 hE.2 (hc32 h32) d1 d2 d3).symm
/-- On a 32-bit host a sign extension from `l ≤ 32` bits is the 32-bit extension of the
low word followed by the arithmetic shift that fills the high word. -/
theorem Sem.exts_pair {T : TCGTarget} (hT : T.reg64 = false) {g : Gen Unit} {r a n l : Nat}
    (hl0 : 0 < l) (hl : l ≤ 32)
    (hlow : Sem g n (fun m => m.set r (sext 32 l (m.regs a)))) (ha : a + 2 ≤ n)
    (hr : r + 2 ≤ n) :
    Sem (g >>= fun _ => tcg_gen_sari_i32 (r + 1) r 31) n
      (fun m => m.set64 T r (sext 64 l (m.get64 T a))) := by
  refine (Sem.bind hlow (tcg_gen_sari_i32_sem (r := r + 1) (a := r) (b := 31) (by norm_num)
    (by omega))).conseq (fun N _ m => ?_)
  have d1 : r ≠ r + 1 := by omega
  rw [Machine.get64_of_reg32 hT]
  refine Agree.of_pair hT (by simp [Machine.set]) ?_ ?_ (fun i hi h1 h2 => ?_)
  · simp only [Function.comp, Machine.set_regs, d1, if_false, if_true]
    apply Nat.eq_of_testBit_eq; intro i
    simp only [testBit_sext, Nat.testBit_mod_two_pow, testBit_pair64]
    rcases Nat.lt_or_ge i 32 with h | h
    · rcases Nat.lt_or_ge i l with h' | h'
      all_goals simp (disch := omega) only [decide_eq_true, decide_eq_false, Bool.and_true,
        Bool.true_and, Bool.false_and, Bool.and_false, Bool.or_false, Bool.false_or]
    · simp (disch := omega) only [decide_eq_true, decide_eq_false, Bool.and_true,
        Bool.true_and, Bool.false_and, Bool.and_false, Bool.or_false, Bool.false_or]
  · simp only [Function.comp, Machine.set_regs, if_true]
    apply Nat.eq_of_testBit_eq; intro i
    simp only [testBit_sar, testBit_sext, Nat.testBit_mod_two_pow, Nat.testBit_shiftRight,
      testBit_pair64]
    rcases Nat.lt_or_ge i 32 with h | h
    · have h1 : ¬ 31 + i < 32 ∨ i = 0 := by omega
      rcases h1 with h1 | h1
      · rcases Nat.lt_or_ge 31 l with h' | h'
        · obtain rfl : l = 32 := by omega
          simp (disch := omega) only [decide_eq_true, decide_eq_false, Bool.and_true,
            Bool.true_and, Bool.false_and, Bool.and_false, Bool.or_false, Bool.false_or,
            Nat.add_sub_cancel_left]
        · simp (disch := omega) only [decide_eq_true, decide_eq_false, Bool.and_true,
            Bool.true_and, Bool.false_and, Bool.and_false, Bool.or_false, Bool.false_or,
            Nat.add_sub_cancel_left]
      · subst h1
        rcases Nat.lt_or_ge 31 l with h' | h'
        · obtain rfl : l = 32 := by omega
          simp
        · simp (disch := omega) only [decide_eq_true, decide_eq_false, Bool.and_true,
            Bool.true_and, Bool.false_and, Bool.and_false, Bool.or_false, Bool.false_or,
            Nat.add_sub_cancel_left, Nat.add_zero, Nat.sub_self, Nat.zero_lt_succ, Bool.or_self]
    · simp (disch := omega) only [decide_eq_true, decide_eq_false, Bool.and_true,
        Bool.true_and, Bool.false_and, Bool.and_false, Bool.or_false, Bool.false_or]
  · simp only [Function.comp, Machine.set_regs, h1, h2, if_false]

theorem sext_32_32 (x : Nat) : sext 32 32 x = x % 2 ^ 32 := by
  unfold sext
  simp

theorem shl_sar_sext (l k x : Nat) (hl0 : 0 < l) (hk : k + l = 64) :
    sar 64 ((x <<< k) % 2 ^ 64 % 2 ^ 64) k % 2 ^ 64 = sext 64 l x % 2 ^ 64 := by
  apply Nat.eq_of_testBit_eq; intro i
  simp only [testBit_sar, testBit_sext, Nat.testBit_mod_two_pow, Nat.testBit_shiftLeft]
  rcases Nat.lt_or_ge i 64 with h | h
  · rcases Nat.lt_or_ge i l with h' | h'
    · simp (disch := omega) only [decide_eq_true, decide_eq_false, Bool.and_true,
        Bool.true_and, Bool.false_and, Bool.and_false, Bool.or_false, Bool.false_or, ge_iff_le,
        Nat.add_sub_cancel_left]
    · simp (disch := omega) only [decide_eq_true, decide_eq_false, Bool.and_true,
        Bool.true_and, Bool.false_and, Bool.and_false, Bool.or_false, Bool.false_or, ge_iff_le]
      congr 1; omega
  · simp (disch := omega) only [decide_eq_true, decide_eq_false, Bool.and_true,
      Bool.true_and, Bool.false_and, Bool.and_false, Bool.or_false, Bool.false_or]

theorem tcg_gen_ext16s_i64_sem (T : TCGTarget) {r a n : Nat} (h1 : a + T.w64 ≤ n)
    (hr : r + T.w64 ≤ n) (hra : r = a ∨ r + T.w64 ≤ a ∨ a + T.w64 ≤ r) :
    Sem (tcg_gen_ext16s_i64 T r a) n (fun m => m.set64 T r (sext 64 16 (m.get64 T a))) := by
  unfold tcg_gen_ext16s_i64
  cases hT : T.reg64
  · have hw := w64_of_reg32 hT
    simp only [Bool.false_eq_true, not_false_eq_true, if_true, TCGV_LOW, TCGV_HIGH]
    exact Sem.exts_pair hT (by norm_num) (by norm_num)
      (tcg_gen_ext16s_i32_sem T (by omega) (by omega)) (by omega) (by omega)
  · have hw := w64_of_reg64 hT
    simp only [not_true_eq_false, if_false]
    split_ifs with c
    · exact Sem.op1_64 hT .ext16s_i64 (fun x => sext 64 16 x) (fun _ => rfl)
        (fun x _ => sext_lt 64 16 x (by norm_num)) (by omega)
    · refine Sem.seq2_64 T (p := fun x => (x <<< 48) % 2 ^ 64) (q := fun x => sar 64 x 48)
        (f := fun x => sext 64 16 x) (tcg_gen_shli_i64_sem T (by norm_num) h1 hr hra)
        (tcg_gen_sari_i64_sem T (by norm_num) hr hr (Or.inl rfl)) (fun x _ => ?_)
      simp only []
      exact shl_sar_sext 16 48 x (by norm_num) rfl

theorem tcg_gen_ext32s_i64_sem (T : TCGTarget) {r a n : Nat} (h1 : a + T.w64 ≤ n)
    (hr : r + T.w64 ≤ n) (hra : r = a ∨ r + T.w64 ≤ a ∨ a + T.w64 ≤ r) :
    Sem (tcg_gen_ext32s_i64 T r a) n (fun m => m.set64 T r (sext 64 32 (m.get64 T a))) := by
  unfold tcg_gen_ext32s_i64
  cases hT : T.reg64
  · have hw := w64_of_reg32 hT
    simp only [Bool.false_eq_true, not_false_eq_true, if_true, TCGV_LOW, TCGV_HIGH]
    exact Sem.exts_pair hT (by norm_num) (le_refl _)
      ((tcg_gen_mov_i32_sem (r := r) (a := a) (by omega)).conseq
        (fun N _ m => Agree.set (Agree.refl _ _) _ (sext_32_32 _).symm)) (by omega) (by omega)
  · have hw := w64_of_reg64 hT
    simp only [not_true_eq_false, if_false]
    split_ifs with c
    · exact Sem.op1_64 hT .ext32s_i64 (fun x => sext 64 32 x) (fun _ => rfl)
        (fun x _ => sext_lt 64 32 x (by norm_num)) (by omega)
    · refine Sem.seq2_64 T (p := fun x => (x <<< 32) % 2 ^ 64) (q := fun x => sar 64 x 32)
        (f := fun x => sext 64 32 x) (tcg_gen_shli_i64_sem T (by norm_num) h1 hr hra)
        (tcg_gen_sari_i64_sem T (by norm_num) hr hr (Or.inl rfl)) (fun x _ => ?_)
      simp only []
      exact shl_sar_sext 32 32 x (by norm_num) rfl
theorem sext_64_64 (x : Nat) : sext 64 64 x = x % 2 ^ 64 := by
  unfold sext
  simp

theorem mem_ld64_swap16 (mem : Nat → Nat) (x c d : Nat) (hsz : c &&& MO_SIZE = MO_16)
    (hcb : c &&& MO_BSWAP ≠ 0) (hd : d &&& MO_SIZE = c &&& MO_SIZE) (hb : d &&& MO_BSWAP = 0)
    (hs : d &&& MO_SIGN = 0) :
    mem_ld 64 mem x d < 2 ^ 16 ∧
    mem_ld 64 mem x c =
      (if c &&& MO_SIGN ≠ 0 then sext 64 16 (bswap16 (mem_ld 64 mem x d))
       else bswap16 (mem_ld 64 mem x d)) := by
  have hr : ldn mem x 2 < 2 ^ 16 := ldn_lt mem x 2
  rw [mem_ld_unsigned 64 mem x d hb hs, hd, hsz, show (2 : Nat) ^ MO_16 = 2 from rfl,
    Nat.mod_eq_of_lt (lt_trans hr (by norm_num))]
  refine ⟨hr, ?_⟩
  unfold mem_ld
  simp only [hsz, hcb, ne_eq, not_false_eq_true, if_true, show (2 : Nat) ^ MO_16 = 2 from rfl,
    show bswap_size MO_16 (ldn mem x 2) = bswap16 (ldn mem x 2) from rfl]
  split
  · exact Nat.mod_eq_of_lt (sext_lt 64 16 _ (by norm_num))
  · exact Nat.mod_eq_of_lt (lt_trans (bswap16_lt _) (by norm_num))

theorem mem_ld64_swap32 (mem : Nat → Nat) (x c d : Nat) (hsz : c &&& MO_SIZE = MO_32)
    (hcb : c &&& MO_BSWAP ≠ 0) (hd : d &&& MO_SIZE = c &&& MO_SIZE) (hb : d &&& MO_BSWAP = 0)
    (hs : d &&& MO_SIGN = 0) :
    mem_ld 64 mem x d < 2 ^ 32 ∧
    mem_ld 64 mem x c =
      (if c &&& MO_SIGN ≠ 0 then sext 64 32 (bswap32 (mem_ld 64 mem x d))
       else bswap32 (mem_ld 64 mem x d)) := by
  have hr : ldn mem x 4 < 2 ^ 32 := ldn_lt mem x 4
  rw [mem_ld_unsigned 64 mem x d hb hs, hd, hsz, show (2 : Nat) ^ MO_32 = 4 from rfl,
    Nat.mod_eq_of_lt (lt_trans hr (by norm_num))]
  refine ⟨hr, ?_⟩
  unfold mem_ld
  simp only [hsz, hcb, ne_eq, not_false_eq_true, if_true, show (2 : Nat) ^ MO_32 = 4 from rfl,
    show bswap_size MO_32 (ldn mem x 4) = bswap32 (ldn mem x 4) from rfl]
  split
  · exact Nat.mod_eq_of_lt (sext_lt 64 32 _ (by norm_num))
  · exact Nat.mod_eq_of_lt (lt_trans (bswap32_lt _) (by norm_num))

theorem mem_ld64_swap64 (mem : Nat → Nat) (x c d : Nat) (hsz : c &&& MO_SIZE = MO_64)
    (hcb : c &&& MO_BSWAP ≠ 0) (hd : d &&& MO_SIZE = c &&& MO_SIZE) (hb : d &&& MO_BSWAP = 0) :
    mem_ld 64 mem x c = bswap64 (mem_ld 64 mem x d) := by
  have hr : ldn mem x 8 < 2 ^ 64 := ldn_lt mem x 8
  unfold mem_ld
  simp only [hd, hsz, hcb, hb, ne_eq, not_false_eq_true, not_true_eq_false, if_true, if_false,
    show (2 : Nat) ^ MO_64 = 8 from rfl, show 8 * 8 = 64 from rfl, sext_64_64, ite_self,
    Nat.mod_mod, Nat.mod_eq_of_lt hr,
    show bswap_size MO_64 (ldn mem x 8) = bswap64 (ldn mem x 8) from rfl]
  split
  · rw [Nat.mod_mod]
    exact Nat.mod_eq_of_lt (bswap64_lt _)
  · exact Nat.mod_eq_of_lt (bswap64_lt _)
theorem sext64_low (l v : Nat) (hl0 : 0 < l) (hl : l ≤ 32) :
    sext 64 l v % 2 ^ 64 % 2 ^ 32 = sext 32 l v % 2 ^ 32 := by
  apply Nat.eq_of_testBit_eq; intro i
  simp only [testBit_sext, Nat.testBit_mod_two_pow]
  rcases Nat.lt_or_ge i 32 with h | h
  · rcases Nat.lt_or_ge i l with h' | h'
    all_goals simp (disch := omega) only [decide_eq_true, decide_eq_false, Bool.and_true,
      Bool.true_and, Bool.false_and, Bool.and_false, Bool.or_false, Bool.false_or]
  · simp (disch := omega) only [decide_eq_true, decide_eq_false, Bool.and_true,
      Bool.true_and, Bool.false_and, Bool.and_false, Bool.or_false, Bool.false_or]

theorem sext64_high (l v : Nat) (hl0 : 0 < l) (hl : l ≤ 32) :
    ((sext 64 l v % 2 ^ 64) >>> 32) % 2 ^ 32 = sar 32 (sext 32 l v % 2 ^ 32 % 2 ^ 32) 31 := by
  apply Nat.eq_of_testBit_eq; intro i
  simp only [testBit_sar, testBit_sext, Nat.testBit_mod_two_pow, Nat.testBit_shiftRight]
  rcases Nat.lt_or_ge i 32 with h | h
  · have h1 : ¬ 31 + i < 32 ∨ i = 0 := by omega
    rcases h1 with h1 | h1
    · rcases Nat.lt_or_ge 31 l with h' | h'
      · obtain rfl : l = 32 := by omega
        simp (disch := omega) only [decide_eq_true, decide_eq_false, Bool.and_true,
          Bool.true_and, Bool.false_and, Bool.and_false, Bool.or_false, Bool.false_or,
          Nat.add_sub_cancel_left]
      · simp (disch := omega) only [decide_eq_true, decide_eq_false, Bool.and_true,
          Bool.true_and, Bool.false_and, Bool.and_false, Bool.or_false, Bool.false_or,
          Nat.add_sub_cancel_left]
    · subst h1
      rcases Nat.lt_or_ge 31 l with h' | h'
      · obtain rfl : l = 32 := by omega
        simp
      · simp (disch := omega) only [decide_eq_true, decide_eq_false, Bool.and_true,
          Bool.true_and, Bool.false_and, Bool.and_false, Bool.or_false, Bool.false_or,
          Nat.add_sub_cancel_left, Nat.add_zero, Nat.sub_self, Nat.zero_lt_succ, Bool.or_self]
  · simp (disch := omega) only [decide_eq_true, decide_eq_false, Bool.and_true,
      Bool.true_and, Bool.false_and, Bool.and_false, Bool.or_false, Bool.false_or]

theorem bswap_size_lt (s x : Nat) (hs : s < 3) (hx : x < 2 ^ (8 * 2 ^ s)) :
    bswap_size s x < 2 ^ 32 := by
  unfold bswap_size
  split
  · exact lt_trans (bswap16_lt _) (by norm_num)
  · split
    · exact bswap32_lt _
    · rw [if_neg (by omega)]
      have hs0 : s = 0 := by omega
      subst hs0
      exact lt_trans hx (by norm_num)

/-- A load of less than 64 bits into a 64-bit container, from the 32-bit load of its low
word: the high word is the sign of the low word for a signed `MemOp` and zero otherwise. -/
theorem mem_ld64_via32 (mem : Nat → Nat) (x c c32 : Nat) (hsz : c &&& MO_SIZE ≠ MO_64)
    (h1 : c32 &&& MO_SIZE = c &&& MO_SIZE) (h2 : c32 &&& MO_BSWAP = c &&& MO_BSWAP)
    (h3 : c &&& MO_SIZE ≠ MO_32 → c32 &&& MO_SIGN = c &&& MO_SIGN)
    (h4 : c &&& MO_SIZE = MO_32 → c32 &&& MO_SIGN = 0) :
    mem_ld 64 mem x c % 2 ^ 32 = mem_ld 32 mem x c32 ∧
    (mem_ld 64 mem x c >>> 32) % 2 ^ 32 =
      (if c &&& MO_SIGN ≠ 0 then sar 32 (mem_ld 32 mem x c32 % 2 ^ 32) 31 else 0 % 2 ^ 32) := by
  have hs3 : c &&& MO_SIZE < 3 := by
    have := and_MO_SIZE c
    have h : c &&& MO_SIZE ≠ 3 := hsz
    omega
  have hl : 0 < 8 * 2 ^ (c &&& MO_SIZE) ∧ 8 * 2 ^ (c &&& MO_SIZE) ≤ 32 := by
    have : c &&& MO_SIZE = 0 ∨ c &&& MO_SIZE = 1 ∨ c &&& MO_SIZE = 2 := by omega
    rcases this with e | e | e <;> rw [e] <;> norm_num
  have hraw := ldn_lt mem x (2 ^ (c &&& MO_SIZE))
  unfold mem_ld
  simp only [h1, h2]
  generalize hv : (if c &&& MO_BSWAP ≠ 0 then
    bswap_size (c &&& MO_SIZE) (ldn mem x (2 ^ (c &&& MO_SIZE)))
    else ldn mem x (2 ^ (c &&& MO_SIZE))) = v
  have hvlt : v < 2 ^ 32 := by
    subst hv
    split
    · exact bswap_size_lt _ _ hs3 hraw
    · exact lt_of_lt_of_le hraw (Nat.pow_le_pow_right (by norm_num) hl.2)
  have hl32 : c &&& MO_SIZE = MO_32 → 8 * 2 ^ (c &&& MO_SIZE) = 32 := fun h => by rw [h]; rfl
  generalize 8 * 2 ^ (c &&& MO_SIZE) = l at hl hl32
  by_cases hs : c &&& MO_SIGN ≠ 0
  · simp only [if_pos hs]
    by_cases h32 : c &&& MO_SIZE = MO_32
    · have e := hl32 h32
      subst e
      have hs32 : ¬ c32 &&& MO_SIGN ≠ 0 := by rw [h4 h32]; simp
      rw [if_neg hs32]
      have e1 := sext64_low 32 v (by norm_num) (le_refl _)
      have e2 := sext64_high 32 v (by norm_num) (le_refl _)
      rw [sext_32_32, Nat.mod_mod] at e1 e2
      exact ⟨e1, e2⟩
    · rw [h3 h32, if_pos hs]
      exact ⟨sext64_low l v hl.1 hl.2, sext64_high l v hl.1 hl.2⟩
  · simp only [if_neg hs]
    have hs32 : ¬ c32 &&& MO_SIGN ≠ 0 := by
      by_cases h32 : c &&& MO_SIZE = MO_32
      · rw [h4 h32]; simp
      · rw [h3 h32]; exact hs
    rw [if_neg hs32]
    have e1 : v % 2 ^ 64 = v := Nat.mod_eq_of_lt (lt_trans hvlt (by norm_num))
    have e2 : v % 2 ^ 32 = v := Nat.mod_eq_of_lt hvlt
    rw [e1, e2]
    refine ⟨rfl, ?_⟩
    rw [Nat.shiftRight_eq_div_pow, Nat.div_eq_of_lt hvlt]
/-- Every aligned `MemOp` of a load canonicalizes, a 64-bit one only for a 64-bit
container. -/
theorem canonical_ld_of (T : TCGTarget) (memop : Nat) (is64 : Bool)
    (hal : T.alignment_valid memop = true) (h64 : is64 = false → memop &&& MO_SIZE ≠ MO_64)
    (s : TCGContext) :
    tcg_canonicalize_memop T memop is64 false s =
      (some (if memop &&& MO_SIZE = MO_8 then memop &&& bnot 32 MO_BSWAP
        else if memop &&& MO_SIZE = MO_32 ∧ is64 = false then memop &&& bnot 32 MO_SIGN
        else memop), s) := by
  rw [tcg_canonicalize_memop_eq, if_pos hal]
  have hm := and_MO_SIZE memop
  simp only [show MO_8 = 0 from rfl, show MO_16 = 1 from rfl, show MO_32 = 2 from rfl,
    show MO_64 = 3 from rfl] at *
  have : memop &&& MO_SIZE = 0 ∨ memop &&& MO_SIZE = 1 ∨ memop &&& MO_SIZE = 2 ∨
      memop &&& MO_SIZE = 3 := by omega
  rcases this with e | e | e | e
  · simp [e]
  · simp [e]
  · cases is64 <;> simp [e]
  · cases is64
    · exact absurd e (h64 rfl)
    · simp [e]

theorem Sem.ld_then64 (T : TCGTarget) {g : Gen Unit} {k : Unit → Gen Unit} {n val : Nat}
    {L L' : Machine → Nat} {P : Nat → Nat} (hg : Sem g n (fun m => m.set64 T val (L m)))
    (hk : Sem (k ()) n (fun m => m.set64 T val (P (m.get64 T val))))
    (hP : ∀ m, P (L m % 2 ^ 64) % 2 ^ 64 = L' m % 2 ^ 64) :
    Sem (g >>= k) n (fun m => m.set64 T val (L' m)) := by
  have hw1 := w64_pos T
  refine (Sem.bind hg hk).conseq (fun N _ m => ?_)
  simp only [Function.comp]
  rw [Machine.get64_set64_self]
  refine Agree.of_set64 T (by simp) (hP m) (fun i hi hne => ?_)
  simp (disch := omega) only [Machine.set64_regs_ne]

/-- Descriptor handed to the access when a 64-bit load emulates the byte swap. -/
theorem ld_i64_desc_facts (c : Nat) (hb : c &&& MO_BSWAP ≠ 0) (D : Nat)
    (hD : (if c &&& bnot 32 MO_BSWAP &&& MO_SIGN ≠ 0 ∧ c &&& bnot 32 MO_BSWAP &&& MO_SIZE < MO_64
      then c &&& bnot 32 MO_BSWAP &&& bnot 32 MO_SIGN else c &&& bnot 32 MO_BSWAP) = D) :
    D &&& MO_SIZE = c &&& MO_SIZE ∧ D &&& MO_BSWAP = 0 ∧
    (c &&& MO_SIZE ≠ MO_64 → D &&& MO_SIGN = 0) ∧ (c ^^^ D) &&& MO_BSWAP ≠ 0 := by
  obtain ⟨f1, f2, f3, f4, f5, f6, _, _⟩ := memop_clear_facts c
  obtain ⟨g1, g2, g3, g4, g5, g6, _, _⟩ := memop_clear_facts (c &&& bnot 32 MO_BSWAP)
  have key : D &&& MO_SIZE = c &&& MO_SIZE ∧ D &&& MO_BSWAP = 0 ∧
      (c &&& MO_SIZE ≠ MO_64 → D &&& MO_SIGN = 0) := by
    subst hD
    split
    · exact ⟨by rw [g3, f4], by rw [g5, f2], fun _ => g1⟩
    · rename_i hn
      refine ⟨f4, f2, fun h64 => ?_⟩
      rw [f4, f6] at hn
      rw [f6]
      by_contra hs
      have := and_MO_SIZE c
      have h3 : c &&& MO_SIZE ≠ 3 := h64
      exact hn ⟨hs, show c &&& MO_SIZE < 3 by omega⟩
  refine ⟨key.1, key.2.1, key.2.2, ?_⟩
  rw [Nat.and_xor_distrib_right, key.2.1, Nat.xor_zero]
  exact hb

theorem tcg_gen_qemu_ld_i64_sem (T : TCGTarget) {val addr n : Nat} (idx memop c : Nat)
    (hidx : idx < 16)
    (hc : ∀ s, tcg_canonicalize_memop T memop true false s = (some c, s))
    (hv : val + T.w64 ≤ n) (ha : addr + T.aw ≤ n) :
    Sem (tcg_gen_qemu_ld_i64_with_checked_addr T val addr idx memop) n
      (fun m => m.set64 T val (mem_ld 64 m.mem (T.ea m addr) c)) := by
  have hw1 := w64_pos T
  obtain ⟨_, hal, _, hce⟩ := tcg_canonicalize_memop_some T memop true false _ _ c
    (hc (TCGContext.fresh 0))
  simp only [Bool.true_eq_false, Bool.false_eq_true, and_false, if_false] at hce
  obtain ⟨f1, f2, f3, f4, f5, f6, _, _⟩ := memop_clear_facts memop
  have hcsz : c &&& MO_SIZE = memop &&& MO_SIZE := by
    rw [hce]; split
    · exact f4
    · rfl
  have hcsg : c &&& MO_SIGN = memop &&& MO_SIGN := by
    rw [hce]; split
    · exact f6
    · rfl
  have hc8 : c &&& MO_SIZE = MO_8 → c &&& MO_BSWAP = 0 := by
    intro h
    rw [hcsz] at h
    rw [hce, if_pos h]
    exact f2
  unfold tcg_gen_qemu_ld_i64_with_checked_addr
  simp only []
  by_cases hA : ¬ T.reg64 = true ∧ memop &&& MO_SIZE < MO_64
  · rw [if_pos hA]
    have hT : T.reg64 = false := by simpa using hA.1
    have hw := w64_of_reg32 hT
    have hne : memop &&& MO_SIZE ≠ MO_64 := fun h => by rw [h] at hA; exact absurd hA.2 (by decide)
    have hc32 := canonical_ld_of T memop false hal (fun _ => hne)
    simp only [and_true] at hc32
    generalize hc32e : (if memop &&& MO_SIZE = MO_8 then memop &&& bnot 32 MO_BSWAP
        else if memop &&& MO_SIZE = MO_32 then memop &&& bnot 32 MO_SIGN else memop) = c32
      at hc32
    obtain ⟨k1, k2, k3, k4, k5, k6, _, _⟩ := memop_clear_facts c
    have hrel : c32 = if c &&& MO_SIZE = MO_32 then c &&& bnot 32 MO_SIGN else c := by
      rw [← hc32e, hcsz, hce]
      by_cases h8 : memop &&& MO_SIZE = MO_8
      · have h32 : ¬ memop &&& MO_SIZE = MO_32 := by rw [h8]; decide
        simp only [if_pos h8, if_neg h32]
      · simp only [if_neg h8]
    have r1 : c32 &&& MO_SIZE = c &&& MO_SIZE := by
      rw [hrel]; split
      · exact k3
      · rfl
    have r2 : c32 &&& MO_BSWAP = c &&& MO_BSWAP := by
      rw [hrel]; split
      · exact k5
      · rfl
    have r3 : c &&& MO_SIZE ≠ MO_32 → c32 &&& MO_SIGN = c &&& MO_SIGN := fun h => by
      rw [hrel, if_neg h]
    have r4 : c &&& MO_SIZE = MO_32 → c32 &&& MO_SIGN = 0 := fun h => by
      rw [hrel, if_pos h]; exact k1
    have hval := fun (m : Machine) => mem_ld64_via32 m.mem (T.ea m addr) c c32
      (by rw [hcsz]; exact hne) r1 r2 r3 r4
    have hld := @tcg_gen_qemu_ld_i32_sem T val addr _ idx memop c32 hidx hc32
      (by omega) ha
    have d1 : val ≠ val + 1 := by omega
    simp only [TCGV_LOW, TCGV_HIGH]
    by_cases hs : memop &&& MO_SIGN ≠ 0
    · rw [if_pos hs]
      refine (Sem.bind hld (tcg_gen_sari_i32_sem (r := val + 1) (a := val) (b := 31)
        (by norm_num) (by omega))).conseq (fun N _ m => ?_)
      obtain ⟨e1, e2⟩ := hval m
      rw [if_pos (by rw [hcsg]; exact hs)] at e2
      refine Agree.of_pair hT (by simp [Machine.set]) ?_ ?_ (fun i hi h1 h2 => ?_)
      · simp only [Function.comp, Machine.set_regs, d1, if_false, if_true]
        exact e1.symm
      · simp only [Function.comp, Machine.set_regs, if_true]
        exact e2.symm
      · simp only [Function.comp, Machine.set_regs, h1, h2, if_false]
    · rw [if_neg hs]
      refine (Sem.bind hld (tcg_gen_movi_i32_sem (val + 1) 0 n)).conseq (fun N _ m => ?_)
      obtain ⟨e1, e2⟩ := hval m
      rw [if_neg (by rw [hcsg]; exact hs)] at e2
      refine Agree.of_pair hT (by simp [Machine.set]) ?_ ?_ (fun i hi h1 h2 => ?_)
      · simp only [Function.comp, Machine.set_regs, d1, if_false, if_true]
        exact e1.symm
      · simp only [Function.comp, Machine.set_regs, if_true]
        exact e2.symm
      · simp only [Function.comp, Machine.set_regs, h1, h2, if_false]
  · rw [if_neg hA]
    have hG : ∀ x, Local n (fun m : Machine => m.set64 T val (mem_ld 64 m.mem x c)) :=
      fun x N hN m m' h => by
        show Agree N (Machine.set64 T m val _) (Machine.set64 T m' val _)
        rw [h.1]
        exact h.set64 T val rfl
    refine Sem.bind_pre (tcg_gen_req_mo_sem T _ n) (Sem.bind_val c hc
      (Sem.bind_pre (trace_guest_mem_before_tcg_sem T _ _ n)
      (Sem.plugin_prep T (G := fun x m => m.set64 T val (mem_ld 64 m.mem x c)) ha hG
        (fun N a hN haN => saved_addr_sem T _ haN (fun N' sv hN' => ?_)))))
    have hvN : val + T.w64 ≤ N' := by omega
    have haN' : a + T.aw ≤ N' := by omega
    have hlog := fun d => log_instr_sem T .qemu_log_instr_load64 sv val d N' (fun _ _ => rfl)
    by_cases hE : ¬T.TCG_TARGET_HAS_MEMORY_BSWAP = true ∧ c &&& MO_BSWAP ≠ 0
    swap
    · simp only [if_neg hE, Nat.xor_self, Nat.zero_and, ne_eq, not_true_eq_false, if_false]
      exact Sem.bind_pre (gen_rvfi_dii_set_field_sem T _ _ _)
        (Sem.bind_post (gen_ldst_i64_ld_sem T c idx hidx haN')
          (Sem.bind_id (gen_rvfi_dii_set_field_sem T _ _ _)
            (Sem.bind_id (gen_rvfi_dii_set_field_const_i32_sem T _ _ _)
              (Sem.bind_id (plugin_gen_mem_callbacks_sem T _ _ _)
                (Sem.bind_id (Sem.pure _) (hlog _))))))
    simp only [if_pos hE]
    generalize hD : (if c &&& bnot 32 MO_BSWAP &&& MO_SIGN ≠ 0 ∧
        c &&& bnot 32 MO_BSWAP &&& MO_SIZE < MO_64
      then c &&& bnot 32 MO_BSWAP &&& bnot 32 MO_SIGN else c &&& bnot 32 MO_BSWAP) = D
    obtain ⟨d1, d2, d3, d4⟩ := ld_i64_desc_facts c hE.2 D hD
    rw [if_pos d4]
    have hsz : c &&& MO_SIZE = MO_16 ∨ c &&& MO_SIZE = MO_32 ∨ c &&& MO_SIZE = MO_64 := by
      have h0 : c &&& MO_SIZE ≠ MO_8 := fun h => hE.2 (hc8 h)
      have := and_MO_SIZE c
      simp only [show MO_8 = 0 from rfl, show MO_16 = 1 from rfl, show MO_32 = 2 from rfl,
        show MO_64 = 3 from rfl] at *
      omega
    refine Sem.bind_pre (gen_rvfi_dii_set_field_sem T _ _ _)
      (Sem.ld_then64 T (gen_ldst_i64_ld_sem T D idx hidx haN')
        (P := fun x => if c &&& MO_SIZE = MO_16 then
          (if c &&& MO_SIGN ≠ 0 then
            sext 64 16 (if T.reg64 = true then
              (if T.TCG_TARGET_HAS_bswap16_i64 = true then bswap16 x
               else (x >>> 8) ||| ((x % 2 ^ 8) <<< 8))
             else
              (if T.TCG_TARGET_HAS_bswap16_i32 = true then bswap16 (x % 2 ^ 32)
               else ((x % 2 ^ 32) >>> 8) ||| ((x % 2 ^ 8) <<< 8)))
           else (if T.reg64 = true then
              (if T.TCG_TARGET_HAS_bswap16_i64 = true then bswap16 x
               else (x >>> 8) ||| ((x % 2 ^ 8) <<< 8))
             else
              (if T.TCG_TARGET_HAS_bswap16_i32 = true then bswap16 (x % 2 ^ 32)
               else ((x % 2 ^ 32) >>> 8) ||| ((x % 2 ^ 8) <<< 8))))
          else if c &&& MO_SIZE = MO_32 then
            (if c &&& MO_SIGN ≠ 0 then sext 64 32 (bswap32 x) else bswap32 x)
          else bswap64 x)
        (Sem.bind_pre (gen_rvfi_dii_set_field_sem T _ _ _)
          (Sem.bind_pre (gen_rvfi_dii_set_field_const_i32_sem T _ _ _)
            (Sem.bind_pre (plugin_gen_mem_callbacks_sem T _ _ _) ?_))) ?_)
    · rcases hsz with h16 | h32 | h64
      · simp only [if_pos h16]
        by_cases hs : c &&& MO_SIGN ≠ 0
        · simp only [if_pos hs]
          refine Sem.seq2_64 T (q := fun x => sext 64 16 x) (p := fun x => if T.reg64 = true then
              (if T.TCG_TARGET_HAS_bswap16_i64 = true then bswap16 x
               else (x >>> 8) ||| ((x % 2 ^ 8) <<< 8))
             else
              (if T.TCG_TARGET_HAS_bswap16_i32 = true then bswap16 (x % 2 ^ 32)
               else ((x % 2 ^ 32) >>> 8) ||| ((x % 2 ^ 8) <<< 8)))
            (f := fun x => sext 64 16 (if T.reg64 = true then
              (if T.TCG_TARGET_HAS_bswap16_i64 = true then bswap16 x
               else (x >>> 8) ||| ((x % 2 ^ 8) <<< 8))
             else
              (if T.TCG_TARGET_HAS_bswap16_i32 = true then bswap16 (x % 2 ^ 32)
               else ((x % 2 ^ 32) >>> 8) ||| ((x % 2 ^ 8) <<< 8))))
            (tcg_gen_bswap16_i64_sem T hvN hvN (Or.inl rfl))
            (Sem.bind_post (tcg_gen_ext16s_i64_sem T hvN hvN (Or.inl rfl)) (hlog _))
            (fun x _ => ?_)
          simp only []
          rw [sext_mod 64 16 _ (by norm_num) (by norm_num)]
        · simp only [if_neg hs]
          exact Sem.bind_post (tcg_gen_bswap16_i64_sem T hvN hvN (Or.inl rfl))
            (Sem.bind_id (Sem.pure _) (hlog _))
      · have h16 : ¬ c &&& MO_SIZE = MO_16 := by rw [h32]; decide
        simp only [if_neg h16, if_pos h32]
        by_cases hs : c &&& MO_SIGN ≠ 0
        · simp only [if_pos hs]
          refine Sem.seq2_64 T (q := fun x => sext 64 32 x) (p := fun x => bswap32 x)
            (f := fun x => sext 64 32 (bswap32 x))
            (tcg_gen_bswap32_i64_sem T hvN hvN (Or.inl rfl))
            (Sem.bind_post (tcg_gen_ext32s_i64_sem T hvN hvN (Or.inl rfl)) (hlog _))
            (fun x _ => ?_)
          simp only []
          rw [sext_mod 64 32 _ (by norm_num) (by norm_num)]
        · simp only [if_neg hs]
          exact Sem.bind_post (tcg_gen_bswap32_i64_sem T hvN hvN (Or.inl rfl))
            (Sem.bind_id (Sem.pure _) (hlog _))
      · have h16 : ¬ c &&& MO_SIZE = MO_16 := by rw [h64]; decide
        have h32 : ¬ c &&& MO_SIZE = MO_32 := by rw [h64]; decide
        simp only [if_neg h16, if_neg h32, if_pos h64]
        exact Sem.bind_post (tcg_gen_bswap64_i64_sem T hvN hvN (Or.inl rfl)) (hlog _)
    · intro m
      have hLlt : mem_ld 64 m.mem (T.addr_val m a) D % 2 ^ 64 = mem_ld 64 m.mem (T.addr_val m a) D :=
        Nat.mod_eq_of_lt (mem_ld_lt _ _ _ _)
      rw [hLlt]
      congr 1
      rcases hsz with h16 | h32 | h64
      · obtain ⟨hlt, e⟩ := mem_ld64_swap16 m.mem (T.addr_val m a) c D h16 hE.2 d1 d2
          (d3 (by rw [h16]; decide))
        simp only [if_pos h16, bswap16_path64 _ _ _ _ hlt]
        exact e.symm
      · have h16 : ¬ c &&& MO_SIZE = MO_16 := by rw [h32]; decide
        obtain ⟨hlt, e⟩ := mem_ld64_swap32 m.mem (T.addr_val m a) c D h32 hE.2 d1 d2
          (d3 (by rw [h32]; decide))
        simp only [if_neg h16, if_pos h32]
        exact e.symm
      · have h16 : ¬ c &&& MO_SIZE = MO_16 := by rw [h64]; decide
        have h32 : ¬ c &&& MO_SIZE = MO_32 := by rw [h64]; decide
        simp only [if_neg h16, if_neg h32]
        exact (mem_ld64_swap64 m.mem (T.addr_val m a) c D h64 hE.2 d1 d2).symm
theorem accesses_bind_left {α β : Type} {g : Gen α} {k : α → Gen β} {P : TCGOp → Prop}
    (hg : Quiet g) (hk : ∀ a, Accesses (k a) P) : Accesses (g >>= k) P := by
  intro s hne
  rw [Gen.bind_apply] at hne ⊢
  have h1 := hg s
  revert hne h1
  rcases g s with ⟨_ | a, s'⟩ <;> intro hne h1
  · exact absurd rfl hne
  · obtain ⟨op, e, hp⟩ := hk a s' hne
    exact ⟨op, e.trans (by rw [h1]), hp⟩

theorem accesses_bind_right {α β : Type} {g : Gen α} {k : α → Gen β} {P : TCGOp → Prop}
    (hg : Accesses g P) (hk : ∀ a, Quiet (k a)) : Accesses (g >>= k) P := by
  intro s hne
  rw [Gen.bind_apply] at hne ⊢
  have h1 := hg s
  revert hne h1
  rcases g s with ⟨_ | a, s'⟩ <;> intro hne h1
  · exact absurd rfl hne
  · obtain ⟨op, e, hp⟩ := h1 (by simp)
    exact ⟨op, (hk a s').trans e, hp⟩

theorem accesses_bind_val {α β : Type} {g : Gen α} {k : α → Gen β} {P : TCGOp → Prop} (a : α)
    (hg : ∀ s, g s = (some a, s)) (hk : Accesses (k a) P) : Accesses (g >>= k) P := by
  intro s hne
  rw [Gen.bind_apply, hg s] at hne ⊢
  exact hk s hne

theorem accesses_ite {α : Type} (c : Prop) [Decidable c] {g h : Gen α} {P : TCGOp → Prop}
    (hg : Accesses g P) (hh : Accesses h P) : Accesses (if c then g else h) P := by
  split <;> assumption

theorem accesses_mono {α : Type} {g : Gen α} {P Q : TCGOp → Prop} (h : Accesses g P)
    (hPQ : ∀ op, P op → Q op) : Accesses g Q := by
  intro s hne
  obtain ⟨op, e, hp⟩ := h s hne
  exact ⟨op, e, hPQ op hp⟩

theorem accesses_emit (opc : TCGOpcode) (args : List TCGArg) (h : opc.is_qemu_ldst = true) :
    Accesses (tcg_emit_op opc args) (fun op => op = ⟨opc, args⟩) := by
  intro s _
  refine ⟨⟨opc, args⟩, ?_, rfl⟩
  show mem_accesses (s.ops ++ [⟨opc, args⟩]) = _
  rw [mem_accesses_append]
  simp [mem_accesses, h]

/-- The memory accesses among the ops an emitter appends. -/
theorem accesses_emitted {g : Gen Unit} {P : TCGOp → Prop} (h : Accesses g P) (s : TCGContext)
    (δ : List TCGOp) (k : Nat) (e : g s = (some (), s.extend δ k)) :
    ∃ op, mem_accesses δ = [op] ∧ P op := by
  obtain ⟨op, e', hp⟩ := h s (by rw [e]; simp)
  rw [e] at e'
  simp only [TCGContext.extend, mem_accesses_append] at e'
  exact ⟨op, List.append_cancel_left e', hp⟩

theorem gen_ldst_i32_accesses (T : TCGTarget) (opc : TCGOpcode) (val addr memop idx : Nat)
    (hidx : idx < 16) (h : opc.is_qemu_ldst = true) :
    Accesses (gen_ldst_i32 T opc val addr memop idx)
      (fun op => op.opc = opc ∧ op.args.head? = some val ∧ op.memop = memop) := by
  have hs := make_memop_idx_shift memop idx hidx
  unfold gen_ldst_i32 tcg_gen_op3 tcg_gen_op4
  simp only []
  split
  · exact accesses_mono (accesses_emit _ _ h) (fun op e => by subst e; exact ⟨rfl, rfl, hs⟩)
  · split
    · exact accesses_mono (accesses_emit _ _ h) (fun op e => by subst e; exact ⟨rfl, rfl, hs⟩)
    · exact accesses_mono (accesses_emit _ _ h) (fun op e => by subst e; exact ⟨rfl, rfl, hs⟩)

theorem gen_ldst_i64_accesses (T : TCGTarget) (opc : TCGOpcode) (val addr memop idx : Nat)
    (hidx : idx < 16) (h : opc.is_qemu_ldst = true) :
    Accesses (gen_ldst_i64 T opc val addr memop idx)
      (fun op => op.opc = opc ∧ op.args.head? = some val ∧ op.memop = memop) := by
  have hs := make_memop_idx_shift memop idx hidx
  unfold gen_ldst_i64 tcg_gen_op3 tcg_gen_op4 tcg_gen_op5
  simp only []
  split
  · split
    · exact accesses_mono (accesses_emit _ _ h) (fun op e => by subst e; exact ⟨rfl, rfl, hs⟩)
    · exact accesses_mono (accesses_emit _ _ h) (fun op e => by subst e; exact ⟨rfl, rfl, hs⟩)
  · split
    · exact accesses_mono (accesses_emit _ _ h) (fun op e => by subst e; exact ⟨rfl, rfl, hs⟩)
    · exact accesses_mono (accesses_emit _ _ h) (fun op e => by subst e; exact ⟨rfl, rfl, hs⟩)

theorem tcg_gen_qemu_ld_i32_accesses (T : TCGTarget) (val addr idx memop c : Nat)
    (hidx : idx < 16)
    (hc : ∀ s, tcg_canonicalize_memop T memop false false s = (some c, s)) :
    Accesses (tcg_gen_qemu_ld_i32_with_checked_addr T val addr idx memop)
      (fun op => op.opc = .qemu_ld_i32 ∧ op.args.head? = some val ∧
        op.memop = (if ¬T.TCG_TARGET_HAS_MEMORY_BSWAP = true ∧ c &&& MO_BSWAP ≠ 0 then
          (if c &&& bnot 32 MO_BSWAP &&& MO_SSIZE = MO_SW then
            c &&& bnot 32 MO_BSWAP &&& bnot 32 MO_SIGN else c &&& bnot 32 MO_BSWAP)
          else c)) := by
  unfold tcg_gen_qemu_ld_i32_with_checked_addr
  simp only []
  refine accesses_bind_left (tcg_gen_req_mo_quiet _ _) (fun _ => accesses_bind_val c hc
    (accesses_bind_left (trace_guest_mem_before_tcg_quiet _ _ _) (fun _ =>
      accesses_bind_left (plugin_prep_mem_callbacks_quiet _ _) (fun a =>
        accesses_bind_left ?_ (fun sv =>
          accesses_bind_left (gen_rvfi_dii_set_field_quiet _ _ _) (fun _ =>
            accesses_bind_right (gen_ldst_i32_accesses T _ _ _ _ _ hidx rfl) (fun _ => ?_)))))))
  all_goals
    repeat' (first | with_reducible (first
      | exact quiet_pure _ | exact quiet_abort | exact quiet_assert _
      | apply tcg_temp_free_i32_quiet | apply tcg_const_i32_quiet | apply tcg_gen_callN_quiet
      | apply tcg_temp_new_cap_checked_quiet | apply tcg_gen_mov_tl_quiet
      | apply gen_rvfi_dii_set_field_quiet | apply gen_rvfi_dii_set_field_const_i32_quiet
      | apply plugin_gen_mem_callbacks_quiet | apply tcg_gen_bswap16_i32_quiet
      | apply tcg_gen_bswap32_i32_quiet | apply tcg_gen_ext16s_i32_quiet
      | apply quiet_bind | apply quiet_ite | apply quiet_dite | intro _ | dsimp only [])
                    | decide | split)
/-- What a `MemOp` canonicalized for a load into a 64-bit container looks like. -/
theorem canonical_ld_i64_facts (T : TCGTarget) (memop c : Nat) (s : TCGContext)
    (hc : tcg_canonicalize_memop T memop true false s = (some c, s)) :
    T.alignment_valid memop = true ∧ c &&& MO_SIZE = memop &&& MO_SIZE ∧
    c &&& MO_SIGN = memop &&& MO_SIGN ∧ (c &&& MO_SIZE = MO_8 → c &&& MO_BSWAP = 0) ∧
    c = (if memop &&& MO_SIZE = MO_8 then memop &&& bnot 32 MO_BSWAP else memop) := by
  obtain ⟨_, hal, _, hce⟩ := tcg_canonicalize_memop_some T memop true false _ _ c hc
  simp only [Bool.true_eq_false, Bool.false_eq_true, and_false, if_false] at hce
  obtain ⟨f1, f2, f3, f4, f5, f6, _, _⟩ := memop_clear_facts memop
  have hcsz : c &&& MO_SIZE = memop &&& MO_SIZE := by
    rw [hce]; split
    · exact f4
    · rfl
  refine ⟨hal, hcsz, ?_, ?_, hce⟩
  · rw [hce]; split
    · exact f6
    · rfl
  · intro h
    rw [hcsz] at h
    rw [hce, if_pos h]
    exact f2

/-- The `MemOp` of a load of less than 64 bits canonicalized for the 32-bit load that a
32-bit host performs, against the canonical form for the 64-bit container. -/
theorem canonical_ld_i64_i32 (T : TCGTarget) (memop c : Nat)
    (hc : ∀ s, tcg_canonicalize_memop T memop true false s = (some c, s))
    (hne : memop &&& MO_SIZE ≠ MO_64) :
    ∃ c32, (∀ s, tcg_canonicalize_memop T memop false false s = (some c32, s)) ∧
      c32 &&& MO_SIZE = c &&& MO_SIZE ∧ c32 &&& MO_BSWAP = c &&& MO_BSWAP ∧
      (c &&& MO_SIZE ≠ MO_32 → c32 &&& MO_SIGN = c &&& MO_SIGN) ∧
      (c &&& MO_SIZE = MO_32 → c32 &&& MO_SIGN = 0) := by
  obtain ⟨hal, hcsz, hcsg, hc8, hce⟩ := canonical_ld_i64_facts T memop c _ (hc (TCGContext.fresh 0))
  have hc32 := canonical_ld_of T memop false hal (fun _ => hne)
  simp only [and_true] at hc32
  generalize hc32e : (if memop &&& MO_SIZE = MO_8 then memop &&& bnot 32 MO_BSWAP
      else if memop &&& MO_SIZE = MO_32 then memop &&& bnot 32 MO_SIGN else memop) = c32
    at hc32
  obtain ⟨k1, k2, k3, k4, k5, k6, _, _⟩ := memop_clear_facts c
  have hrel : c32 = if c &&& MO_SIZE = MO_32 then c &&& bnot 32 MO_SIGN else c := by
    rw [← hc32e, hcsz, hce]
    by_cases h8 : memop &&& MO_SIZE = MO_8
    · have h32 : ¬ memop &&& MO_SIZE = MO_32 := by rw [h8]; decide
      simp only [if_pos h8, if_neg h32]
    · simp only [if_neg h8]
  refine ⟨c32, hc32, ?_, ?_, fun h => by rw [hrel, if_neg h], fun h => by
    rw [hrel, if_pos h]; exact k1⟩
  · rw [hrel]; split
    · exact k3
    · rfl
  · rw [hrel]; split
    · exact k5
    · rfl

theorem tcg_gen_qemu_ld_i64_accesses (T : TCGTarget) (val addr idx memop c : Nat)
    (hidx : idx < 16)
    (hc : ∀ s, tcg_canonicalize_memop T memop true false s = (some c, s))
    (hB : T.TCG_TARGET_HAS_MEMORY_BSWAP = false) (hb : c &&& MO_BSWAP ≠ 0) :
    Accesses (tcg_gen_qemu_ld_i64_with_checked_addr T val addr idx memop)
      (fun op => (if T.reg64 = false ∧ c &&& MO_SIZE ≠ MO_64 then op.opc = .qemu_ld_i32
          else op.opc = .qemu_ld_i64) ∧ op.args.head? = some val ∧
        op.memop &&& MO_SIZE = c &&& MO_SIZE ∧ op.memop &&& MO_BSWAP = 0 ∧
        (c &&& MO_SIZE ≠ MO_64 → op.memop &&& MO_SIGN = 0)) := by
  obtain ⟨hal, hcsz, hcsg, hc8, hce⟩ := canonical_ld_i64_facts T memop c _ (hc (TCGContext.fresh 0))
  have hE : ¬T.TCG_TARGET_HAS_MEMORY_BSWAP = true ∧ c &&& MO_BSWAP ≠ 0 := ⟨by simp [hB], hb⟩
  unfold tcg_gen_qemu_ld_i64_with_checked_addr
  simp only []
  by_cases hA : ¬ T.reg64 = true ∧ memop &&& MO_SIZE < MO_64
  · rw [if_pos hA]
    have hne : memop &&& MO_SIZE ≠ MO_64 := fun h => by rw [h] at hA; exact absurd hA.2 (by decide)
    have hcond : T.reg64 = false ∧ c &&& MO_SIZE ≠ MO_64 := ⟨by simpa using hA.1, by rw [hcsz]; exact hne⟩
    obtain ⟨c32, hc32, r1, r2, r3, r4⟩ := canonical_ld_i64_i32 T memop c hc hne
    obtain ⟨hc8', hc64', hc32'⟩ := canonical_ld_i32_facts T memop c32 _ (hc32 (TCGContext.fresh 0))
    have hb32 : c32 &&& MO_BSWAP ≠ 0 := by rw [r2]; exact hb
    have hE32 : ¬T.TCG_TARGET_HAS_MEMORY_BSWAP = true ∧ c32 &&& MO_BSWAP ≠ 0 :=
      ⟨by simp [hB], hb32⟩
    obtain ⟨d1, d2, d3, d4⟩ := ld_i32_desc_facts c32 hb32 hc32'
      (canonical_swap_size c32 hb32 hc8' hc64') _ rfl
    refine accesses_bind_right (accesses_mono
      (tcg_gen_qemu_ld_i32_accesses T (TCGV_LOW val) addr idx memop c32 hidx hc32)
      (fun op h => ?_)) (fun _ => ?_)
    · obtain ⟨h1, h2, h3⟩ := h
      rw [if_pos hE32] at h3
      rw [if_pos hcond, h3]
      exact ⟨h1, h2, by rw [d1, r1], d2, fun _ => d3⟩
    · split
      · exact tcg_gen_sari_i32_quiet _ _ _
      · exact tcg_gen_movi_i32_quiet _ _
  · rw [if_neg hA]
    have hcond : ¬ (T.reg64 = false ∧ c &&& MO_SIZE ≠ MO_64) := by
      rw [hcsz]
      intro h
      apply hA
      refine ⟨by simp [h.1], ?_⟩
      have := and_MO_SIZE memop
      have h3 : memop &&& MO_SIZE ≠ 3 := h.2
      show memop &&& MO_SIZE < 3
      omega
    obtain ⟨d1, d2, d3, d4⟩ := ld_i64_desc_facts c hb _ rfl
    refine accesses_bind_left (tcg_gen_req_mo_quiet _ _) (fun _ => accesses_bind_val c hc
      (accesses_bind_left (trace_guest_mem_before_tcg_quiet _ _ _) (fun _ =>
        accesses_bind_left (plugin_prep_mem_callbacks_quiet _ _) (fun a =>
          accesses_bind_left ?_ (fun sv =>
            accesses_bind_left (gen_rvfi_dii_set_field_quiet _ _ _) (fun _ =>
              accesses_bind_right (accesses_mono
                (gen_ldst_i64_accesses T _ _ _ _ _ hidx rfl) (fun op h => ?hm))
                (fun _ => ?_)))))))
    case hm =>
      obtain ⟨h1, h2, h3⟩ := h
      rw [if_pos hE] at h3
      rw [if_neg hcond, h3]
      exact ⟨h1, h2, d1, d2, d3⟩
    all_goals
      repeat' (first | with_reducible (first
        | exact quiet_pure _ | exact quiet_abort | exact quiet_assert _
        | apply tcg_temp_free_i32_quiet | apply tcg_const_i32_quiet | apply tcg_gen_callN_quiet
        | apply tcg_temp_new_cap_checked_quiet | apply tcg_gen_mov_tl_quiet
        | apply gen_rvfi_dii_set_field_quiet | apply gen_rvfi_dii_set_field_const_i32_quiet
        | apply plugin_gen_mem_callbacks_quiet | apply tcg_gen_bswap16_i64_quiet
        | apply tcg_gen_bswap32_i64_quiet | apply tcg_gen_bswap64_i64_quiet
        | apply tcg_gen_ext16s_i64_quiet | apply tcg_gen_ext32s_i64_quiet
        | apply quiet_bind | apply quiet_ite | apply quiet_dite | intro _ | dsimp only [])
                      | decide | split)
theorem tcg_canonicalize_memop_all (T : TCGTarget) (op : Nat) (is64 st : Bool)
    (s : TCGContext) (c : Nat) (h : (tcg_canonicalize_memop T op is64 st s).1 = some c)
    (s' : TCGContext) : tcg_canonicalize_memop T op is64 st s' = (some c, s') := by
  have h1 := tcg_canonicalize_memop_indep T op is64 st s s'
  have h2 := tcg_canonicalize_memop_state T op is64 st s'
  rw [h] at h1
  exact Prod.ext h1 h2

theorem tcg_canonicalize_memop_host (T : TCGTarget) (b : Bool) (op : Nat) (is64 st : Bool)
    (s : TCGContext) :
    tcg_canonicalize_memop { T with TCG_TARGET_HAS_MEMORY_BSWAP := b } op is64 st s =
      tcg_canonicalize_memop T op is64 st s := by
  rw [tcg_canonicalize_memop_eq, tcg_canonicalize_memop_eq]

/-- The value of a byte-swapped load into a 32-bit container: the bytes as an unsigned
access in host order delivers them, swapped, then sign-extended for a signed `MemOp`. -/
theorem mem_ld_emulated_32 (mem : Nat → Nat) (x c d : Nat)
    (hsz : c &&& MO_SIZE = MO_16 ∨ c &&& MO_SIZE = MO_32)
    (hc32 : c &&& MO_SIZE = MO_32 → c &&& MO_SIGN = 0)
    (hcb : c &&& MO_BSWAP ≠ 0) (hd : d &&& MO_SIZE = c &&& MO_SIZE) (hb : d &&& MO_BSWAP = 0)
    (hs : d &&& MO_SIGN = 0) :
    mem_ld 32 mem x d = ldn mem x (2 ^ (c &&& MO_SIZE)) ∧
    mem_ld 32 mem x d < 2 ^ (8 * 2 ^ (c &&& MO_SIZE)) ∧
    mem_ld 32 mem x c =
      (if c &&& MO_SIGN ≠ 0 then
        sext 32 (8 * 2 ^ (c &&& MO_SIZE)) (bswap_size (c &&& MO_SIZE) (mem_ld 32 mem x d))
       else bswap_size (c &&& MO_SIZE) (mem_ld 32 mem x d)) := by
  have hraw := ldn_lt mem x (2 ^ (c &&& MO_SIZE))
  have e0 : mem_ld 32 mem x d = ldn mem x (2 ^ (c &&& MO_SIZE)) := by
    rw [mem_ld_unsigned 32 mem x d hb hs, hd]
    refine Nat.mod_eq_of_lt (lt_of_lt_of_le hraw (Nat.pow_le_pow_right (by norm_num) ?_))
    rcases hsz with h | h <;> rw [h] <;> decide
  refine ⟨e0, by rw [e0]; exact hraw, ?_⟩
  rcases hsz with h | h
  · rw [(mem_ld_swap16 mem x c d h hcb hd hb hs).2, h]
    rfl
  · rw [mem_ld_swap32 mem x c d h hcb (hc32 h) hd hb hs, h, if_neg (by rw [hc32 h]; simp)]
    rfl

/-- The value of a byte-swapped load into a 64-bit container. -/
theorem mem_ld_emulated_64 (mem : Nat → Nat) (x c d : Nat) (hc8 : c &&& MO_SIZE ≠ MO_8)
    (hcb : c &&& MO_BSWAP ≠ 0) (hd : d &&& MO_SIZE = c &&& MO_SIZE) (hb : d &&& MO_BSWAP = 0)
    (hs : c &&& MO_SIZE ≠ MO_64 → d &&& MO_SIGN = 0) :
    mem_ld 64 mem x d = ldn mem x (2 ^ (c &&& MO_SIZE)) ∧
    (c &&& MO_SIZE ≠ MO_64 → mem_ld 32 mem x d = ldn mem x (2 ^ (c &&& MO_SIZE))) ∧
    mem_ld 64 mem x d < 2 ^ (8 * 2 ^ (c &&& MO_SIZE)) ∧
    mem_ld 64 mem x c =
      (if c &&& MO_SIGN ≠ 0 then
        sext 64 (8 * 2 ^ (c &&& MO_SIZE)) (bswap_size (c &&& MO_SIZE) (mem_ld 64 mem x d))
       else bswap_size (c &&& MO_SIZE) (mem_ld 64 mem x d)) := by
  have hraw := ldn_lt mem x (2 ^ (c &&& MO_SIZE))
  have hsz : c &&& MO_SIZE = MO_16 ∨ c &&& MO_SIZE = MO_32 ∨ c &&& MO_SIZE = MO_64 := by
    have := and_MO_SIZE c
    simp only [show MO_8 = 0 from rfl, show MO_16 = 1 from rfl, show MO_32 = 2 from rfl,
      show MO_64 = 3 from rfl] at *
    omega
  have e0 : mem_ld 64 mem x d = ldn mem x (2 ^ (c &&& MO_SIZE)) := by
    unfold mem_ld
    simp only [hd, hb, ne_eq, not_true_eq_false, if_false]
    rcases hsz with h | h | h
    · rw [if_neg (by rw [hs (by rw [h]; decide)]; simp)]
      exact Nat.mod_eq_of_lt (lt_of_lt_of_le hraw (Nat.pow_le_pow_right (by norm_num)
        (by rw [h]; decide)))
    · rw [if_neg (by rw [hs (by rw [h]; decide)]; simp)]
      exact Nat.mod_eq_of_lt (lt_of_lt_of_le hraw (Nat.pow_le_pow_right (by norm_num)
        (by rw [h]; decide)))
    · rw [h] at hraw ⊢
      have hr : ldn mem x 8 < 2 ^ 64 := hraw
      simp only [show (2 : Nat) ^ MO_64 = 8 from rfl, show 8 * 8 = 64 from rfl, sext_64_64,
        ite_self, Nat.mod_mod]
      split
      · rw [Nat.mod_mod]; exact Nat.mod_eq_of_lt hr
      · exact Nat.mod_eq_of_lt hr
  refine ⟨e0, fun h64 => ?_, by rw [e0]; exact hraw, ?_⟩
  · rw [mem_ld_unsigned 32 mem x d hb (hs h64), hd]
    refine Nat.mod_eq_of_lt (lt_of_lt_of_le hraw (Nat.pow_le_pow_right (by norm_num) ?_))
    rcases hsz with h | h | h
    · rw [h]; decide
    · rw [h]; decide
    · exact absurd h h64
  rcases hsz with h | h | h
  · rw [(mem_ld64_swap16 mem x c d h hcb hd hb (hs (by rw [h]; decide))).2, h]
    rfl
  · rw [(mem_ld64_swap32 mem x c d h hcb hd hb (hs (by rw [h]; decide))).2, h]
    rfl
  · rw [mem_ld64_swap64 mem x c d h hcb hd hb, h]
    show _ = if c &&& MO_SIGN ≠ 0 then sext 64 64 (bswap64 _) else bswap64 _
    rw [sext_64_64, Nat.mod_eq_of_lt (bswap64_lt _), ite_self]
/-- The part of a guest store after the value has been prepared: the address hooks, the
access and the trace, log and tag-invalidation hooks. -/
theorem st_tail_sem (T : TCGTarget) {addr n : Nat} (val idx d info : Nat) (inv : Bool)
    (h : Helper) (st : TCGv → Gen Unit) {G : Nat → Machine → Machine}
    (hh : ∀ args m, exec_op ⟨.call, h.toCtorIdx :: args⟩ m = m)
    (ha : addr + T.aw ≤ n) (hG : ∀ x, Local n (G x))
    (hst : ∀ N a, n ≤ N → a + T.aw ≤ N → Sem (st a) N (fun m => G (T.addr_val m a) m)) :
    Sem (do
      let addr ← plugin_prep_mem_callbacks T addr
      gen_rvfi_dii_set_field T .mem_addr addr
      gen_rvfi_dii_set_field T .mem_wdata val
      st addr
      gen_rvfi_dii_set_field_const_i32 T .mem_wmask (memop_rvfi_mask d)
      plugin_gen_mem_callbacks T addr info
      if T.TARGET_MIPS ∨ T.TARGET_RISCV ∨ T.CONFIG_TCG_LOG_INSTR ∨ T.TARGET_CHERI then
        let tcop ← tcg_const_i32 d
        if T.CONFIG_TCG_LOG_INSTR ∧ T.tcg_ctx_logging_enabled then
          tcg_gen_callN h [addr, val, tcop]
        if T.TARGET_CHERI ∧ inv then
          gen_cheri_invalidate_tags T addr tcop idx
        if (T.TARGET_MIPS ∨ T.TARGET_RISCV) ∧ inv then
          gen_cheri_break_loadlink addr tcop
        tcg_temp_free_i32 tcop) n
      (fun m => G (T.ea m addr) m) := by
  refine Sem.plugin_prep T ha hG (fun N a hN haN => ?_)
  refine Sem.bind_pre (gen_rvfi_dii_set_field_sem T _ _ _)
    (Sem.bind_pre (gen_rvfi_dii_set_field_sem T _ _ _)
      (Sem.bind_post (hst N a hN haN)
        (Sem.bind_id (gen_rvfi_dii_set_field_const_i32_sem T _ _ _)
          (Sem.bind_id (plugin_gen_mem_callbacks_sem T _ _ _) ?_))))
  apply Sem.ite
  · refine Sem.const_id d (fun t ht => ?_)
    simp only []
    repeat' (first
      | exact Sem.pure _ | exact Sem.free _ _ | exact Sem.call_id _ _ _ (hh _)
      | exact gen_cheri_invalidate_tags_sem _ _ _ _ _ | exact gen_cheri_break_loadlink_sem _ _ _
      | apply Sem.ite | apply Sem.bind_id)
  · exact Sem.pure _
/-- What a `MemOp` canonicalized for a store from a 32-bit container looks like. -/
theorem canonical_st_i32_facts (T : TCGTarget) (memop c : Nat) (s : TCGContext)
    (hc : tcg_canonicalize_memop T memop false true s = (some c, s)) :
    (c &&& MO_SIZE = MO_8 → c &&& MO_BSWAP = 0) ∧ c &&& MO_SIZE ≠ MO_64 ∧ c &&& MO_SIGN = 0 := by
  obtain ⟨_, _, h64, e⟩ := tcg_canonicalize_memop_some T memop false true s s c hc
  have h64 := h64 rfl
  simp only [if_true, and_true] at e
  obtain ⟨f1, f2, f3, f4, f5, f6, _, _⟩ := memop_clear_facts memop
  generalize hx : (if memop &&& MO_SIZE = MO_8 then memop &&& bnot 32 MO_BSWAP
    else if memop &&& MO_SIZE = MO_32 then memop &&& bnot 32 MO_SIGN else memop) = x at e
  obtain ⟨k1, k2, k3, k4, k5, k6, _, _⟩ := memop_clear_facts x
  have hxs : x &&& MO_SIZE = memop &&& MO_SIZE := by
    rw [← hx]; split
    · exact f4
    · split
      · exact f3
      · rfl
  subst e
  refine ⟨fun h => ?_, by rw [k3, hxs]; exact h64, k1⟩
  rw [k3, hxs] at h
  rw [k5, ← hx, if_pos h]
  exact f2

theorem mem_st_swap16 (mem : Nat → Nat) (x c d v w : Nat) (hsz : c &&& MO_SIZE = MO_16)
    (hcb : c &&& MO_BSWAP ≠ 0) (hd : d &&& MO_SIZE = c &&& MO_SIZE) (hb : d &&& MO_BSWAP = 0)
    (hw : w = bswap16 (v % 2 ^ 16)) :
    mem_st mem x d w = mem_st mem x c v := by
  subst hw
  unfold mem_st
  simp only [hd, hsz, hcb, hb, ne_eq, not_false_eq_true, not_true_eq_false, if_true, if_false,
    show 8 * 2 ^ MO_16 = 16 from rfl, Nat.mod_eq_of_lt (bswap16_lt _)]
  rfl

theorem mem_st_swap32 (mem : Nat → Nat) (x c d v w : Nat) (hsz : c &&& MO_SIZE = MO_32)
    (hcb : c &&& MO_BSWAP ≠ 0) (hd : d &&& MO_SIZE = c &&& MO_SIZE) (hb : d &&& MO_BSWAP = 0)
    (hw : w = bswap32 (v % 2 ^ 32)) :
    mem_st mem x d w = mem_st mem x c v := by
  subst hw
  unfold mem_st
  simp only [hd, hsz, hcb, hb, ne_eq, not_false_eq_true, not_true_eq_false, if_true, if_false,
    show 8 * 2 ^ MO_32 = 32 from rfl, Nat.mod_eq_of_lt (bswap32_lt _)]
  rfl

theorem mem_st_swap64 (mem : Nat → Nat) (x c d v w : Nat) (hsz : c &&& MO_SIZE = MO_64)
    (hcb : c &&& MO_BSWAP ≠ 0) (hd : d &&& MO_SIZE = c &&& MO_SIZE) (hb : d &&& MO_BSWAP = 0)
    (hw : w = bswap64 (v % 2 ^ 64)) :
    mem_st mem x d w = mem_st mem x c v := by
  subst hw
  unfold mem_st
  simp only [hd, hsz, hcb, hb, ne_eq, not_false_eq_true, not_true_eq_false, if_true, if_false,
    show 8 * 2 ^ MO_64 = 64 from rfl, Nat.mod_eq_of_lt (bswap64_lt _)]
  rfl

theorem mem_st_mod (mem : Nat → Nat) (x c v w : Nat) (hw : 8 * 2 ^ (c &&& MO_SIZE) ≤ w) :
    mem_st mem x c (v % 2 ^ w) = mem_st mem x c v := by
  unfold mem_st
  simp only [Nat.mod_mod_of_dvd _ (Nat.pow_dvd_pow 2 hw)]

/-- The store tail, for an emitter given up to rewriting of its binds. -/
theorem st_tail_sem_of (T : TCGTarget) {addr n : Nat} (val idx d info : Nat) (inv : Bool)
    (h : Helper) (st : TCGv → Gen Unit) {G : Nat → Machine → Machine}
    (hh : ∀ args m, exec_op ⟨.call, h.toCtorIdx :: args⟩ m = m)
    (ha : addr + T.aw ≤ n) (hG : ∀ x, Local n (G x))
    (hst : ∀ N a, n ≤ N → a + T.aw ≤ N → Sem (st a) N (fun m => G (T.addr_val m a) m))
    (g : Gen Unit)
    (hg : g = (do
      let addr ← plugin_prep_mem_callbacks T addr
      gen_rvfi_dii_set_field T .mem_addr addr
      gen_rvfi_dii_set_field T .mem_wdata val
      st addr
      gen_rvfi_dii_set_field_const_i32 T .mem_wmask (memop_rvfi_mask d)
      plugin_gen_mem_callbacks T addr info
      if T.TARGET_MIPS ∨ T.TARGET_RISCV ∨ T.CONFIG_TCG_LOG_INSTR ∨ T.TARGET_CHERI then
        let tcop ← tcg_const_i32 d
        if T.CONFIG_TCG_LOG_INSTR ∧ T.tcg_ctx_logging_enabled then
          tcg_gen_callN h [addr, val, tcop]
        if T.TARGET_CHERI ∧ inv then
          gen_cheri_invalidate_tags T addr tcop idx
        if (T.TARGET_MIPS ∨ T.TARGET_RISCV) ∧ inv then
          gen_cheri_break_loadlink addr tcop
        tcg_temp_free_i32 tcop)) :
    Sem g n (fun m => G (T.ea m addr) m) := by
  subst hg
  exact st_tail_sem T val idx d info inv h st hh ha hG hst

theorem tcg_gen_qemu_st_i32_sem (T : TCGTarget) {val addr n : Nat} (idx memop c : Nat)
    (inv : Bool) (hidx : idx < 16)
    (hc : ∀ s, tcg_canonicalize_memop T memop false true s = (some c, s))
    (hv : val < n) (ha : addr + T.aw ≤ n) :
    Sem (tcg_gen_qemu_st_i32_with_checked_addr_cond_invalidate T val addr idx memop inv) n
      (fun m => { m with mem := (mem_st m.mem (T.ea m addr) c (m.regs val)) }) := by
  have haw := aw_pos T
  obtain ⟨hc8, hc64, _⟩ := canonical_st_i32_facts T memop c _ (hc (TCGContext.fresh 0))
  obtain ⟨f1, f2, f3, f4, f5, f6, _, _⟩ := memop_clear_facts c
  have hG : ∀ (v d N : Nat), v < N → ∀ x, Local N (fun m : Machine =>
      { m with mem := (mem_st m.mem x d (m.regs v % 2 ^ 32)) }) := by
    intro v d N hvN x N' hN' m m' h
    refine ⟨?_, h.2⟩
    show mem_st m.mem x d (m.regs v % 2 ^ 32) = mem_st m'.mem x d (m'.regs v % 2 ^ 32)
    rw [h.1, h.2 v (by omega)]
  have htail : ∀ (v d N : Nat), v < N → n ≤ N → ∀ g, _ → Sem g N _ := fun v d N hvN hN =>
    st_tail_sem_of T v idx d (T.trace_mem_get_info memop idx true) inv .qemu_log_instr_store32
      (fun a => gen_ldst_i32 T .qemu_st_i32 v a d idx) (fun _ _ => rfl)
      (show addr + T.aw ≤ N by omega) (hG v d N hvN)
      (fun N' a hN' haN' => gen_ldst_i32_st_sem T d idx hidx haN' (by omega))
  unfold tcg_gen_qemu_st_i32_with_checked_addr_cond_invalidate
  simp only []
  refine Sem.bind_pre (tcg_gen_req_mo_sem T _ n) (Sem.bind_val c hc
    (Sem.bind_pre (trace_guest_mem_before_tcg_sem T _ _ n) ?_))
  by_cases hE : ¬T.TCG_TARGET_HAS_MEMORY_BSWAP = true ∧ c &&& MO_BSWAP ≠ 0
  swap
  · simp only [if_neg hE, Gen.pure_bind]
    refine (htail val c n hv (le_refl _) _ rfl).conseq (fun N _ m => ?_)
    refine ⟨?_, fun _ _ => rfl⟩
    exact mem_st_mod _ _ _ _ 32 (by
      have := and_MO_SIZE c
      have h3 : c &&& MO_SIZE ≠ 3 := hc64
      have : c &&& MO_SIZE = 0 ∨ c &&& MO_SIZE = 1 ∨ c &&& MO_SIZE = 2 := by omega
      rcases this with e | e | e <;> rw [e] <;> norm_num)
  · simp only [if_pos hE, Gen.bind_assoc, Gen.pure_bind, Gen.ite_bind]
    have hsz := canonical_swap_size c hE.2 hc8 hc64
    have hL : Local n (fun m : Machine =>
        { m with mem := (mem_st m.mem (T.ea m addr) c (m.regs val)) }) := by
      intro N hN m m' h
      refine ⟨?_, h.2⟩
      show mem_st m.mem (T.ea m addr) c (m.regs val) = mem_st m'.mem (T.ea m' addr) c (m'.regs val)
      rw [h.1, (h.mono hN).ea T ha, h.2 val (by omega)]
    rcases hsz with h16 | h32
    · simp only [if_pos h16]
      refine Sem.new hL (fun t ht => Sem.bind
        (tcg_gen_ext16u_i32_sem T (r := t) (a := val) (n := t + 1) (by omega))
        (Sem.bind (tcg_gen_bswap16_i32_sem T (r := t) (a := t) (n := t + 1) (by omega) (by omega))
          (htail t (c &&& bnot 32 MO_BSWAP) (t + 1) (by omega) (by omega) _
            (by simp only [Gen.bind_assoc, Gen.pure_bind])))) (fun t ht m => ?_)
      refine ⟨?_, fun i hi => ?_⟩
      swap
      · simp only [Function.comp]
        rw [Machine.set_regs_ne _ _ (by omega), Machine.set_regs_ne _ _ (by omega)]
      simp only [Function.comp, Machine.set_regs_self, Machine.set_mem]
      rw [bswap16_path32 _ _ (Nat.mod_lt _ (by norm_num))]
      have e : T.ea ((m.set t (m.regs val % 2 ^ 16)).set t (bswap16 (m.regs val % 2 ^ 16))) addr
          = T.ea m addr :=
        (show Agree n ((m.set t (m.regs val % 2 ^ 16)).set t (bswap16 (m.regs val % 2 ^ 16))) m
          from ⟨rfl, fun i hi => by
            rw [Machine.set_regs_ne _ _ (by omega), Machine.set_regs_ne _ _ (by omega)]⟩).ea T ha
      rw [e]
      exact mem_st_swap16 _ _ c _ (m.regs val) _ h16 hE.2 f4 f2
        (Nat.mod_eq_of_lt (lt_trans (bswap16_lt _) (by norm_num)))
    · have h16 : ¬ c &&& MO_SIZE = MO_16 := by rw [h32]; decide
      simp only [if_neg h16, if_pos h32]
      refine Sem.new hL (fun t ht => Sem.bind
        (tcg_gen_bswap32_i32_sem T (r := t) (a := val) (n := t + 1) (by omega) (by omega))
        (htail t (c &&& bnot 32 MO_BSWAP) (t + 1) (by omega) (by omega) _
          (by simp only [Gen.bind_assoc, Gen.pure_bind]))) (fun t ht m => ?_)
      refine ⟨?_, fun i hi => Machine.set_regs_ne _ _ (by omega)⟩
      simp only [Function.comp, Machine.set_regs_self, Machine.set_mem]
      have e : T.ea (m.set t (bswap32 (m.regs val))) addr = T.ea m addr :=
        (show Agree n (m.set t (bswap32 (m.regs val))) m
          from ⟨rfl, fun i hi => Machine.set_regs_ne _ _ (by omega)⟩).ea T ha
      rw [e]
      exact mem_st_swap32 _ _ c _ (m.regs val) _ h32 hE.2 f4 f2
        (by rw [Nat.mod_eq_of_lt (bswap32_lt _), bswap32_mod])
/-- What a `MemOp` canonicalized for a store from a 64-bit container looks like. -/
theorem canonical_st_i64_facts (T : TCGTarget) (memop c : Nat) (s : TCGContext)
    (hc : tcg_canonicalize_memop T memop true true s = (some c, s)) :
    T.alignment_valid memop = true ∧ c &&& MO_SIZE = memop &&& MO_SIZE ∧
    (c &&& MO_SIZE = MO_8 → c &&& MO_BSWAP = 0) ∧
    (memop &&& MO_SIZE ≠ MO_8 → c &&& MO_BSWAP = memop &&& MO_BSWAP) := by
  obtain ⟨_, hal, _, e⟩ := tcg_canonicalize_memop_some T memop true true s s c hc
  simp only [if_true, Bool.true_eq_false, and_false, if_false] at e
  obtain ⟨f1, f2, f3, f4, f5, f6, _, _⟩ := memop_clear_facts memop
  generalize hx : (if memop &&& MO_SIZE = MO_8 then memop &&& bnot 32 MO_BSWAP else memop) = x
    at e
  obtain ⟨k1, k2, k3, k4, k5, k6, _, _⟩ := memop_clear_facts x
  have hxs : x &&& MO_SIZE = memop &&& MO_SIZE := by
    rw [← hx]; split
    · exact f4
    · rfl
  subst e
  refine ⟨hal, by rw [k3, hxs], fun h => ?_, fun h => ?_⟩
  · rw [k3, hxs] at h
    rw [k5, ← hx, if_pos h]
    exact f2
  · rw [k5, ← hx, if_neg h]

/-- Every aligned `MemOp` of a store canonicalizes, a 64-bit one only for a 64-bit
container. -/
theorem canonical_st_of (T : TCGTarget) (memop : Nat) (is64 : Bool)
    (hal : T.alignment_valid memop = true) (h64 : is64 = false → memop &&& MO_SIZE ≠ MO_64)
    (s : TCGContext) :
    ∃ c, tcg_canonicalize_memop T memop is64 true s = (some c, s) := by
  rw [tcg_canonicalize_memop_eq, if_pos hal]
  have hm := and_MO_SIZE memop
  simp only [show MO_8 = 0 from rfl, show MO_16 = 1 from rfl, show MO_32 = 2 from rfl,
    show MO_64 = 3 from rfl] at *
  have : memop &&& MO_SIZE = 0 ∨ memop &&& MO_SIZE = 1 ∨ memop &&& MO_SIZE = 2 ∨
      memop &&& MO_SIZE = 3 := by omega
  rcases this with e | e | e | e
  · simp [e]
  · simp [e]
  · simp [e]
  · cases is64
    · exact absurd e (h64 rfl)
    · simp [e]

theorem mem_st_congr (mem : Nat → Nat) (x c d v w : Nat) (hd : d &&& MO_SIZE = c &&& MO_SIZE)
    (hb : d &&& MO_BSWAP = c &&& MO_BSWAP)
    (hv : w % 2 ^ (8 * 2 ^ (c &&& MO_SIZE)) = v % 2 ^ (8 * 2 ^ (c &&& MO_SIZE))) :
    mem_st mem x d w = mem_st mem x c v := by
  unfold mem_st
  simp only [hd, hb, hv]

/-- Size and byte order of a canonicalized store `MemOp`. -/
theorem canonical_st_bits (T : TCGTarget) (memop c : Nat) (is64 : Bool) (s : TCGContext)
    (hc : tcg_canonicalize_memop T memop is64 true s = (some c, s)) :
    c &&& MO_SIZE = memop &&& MO_SIZE ∧
    c &&& MO_BSWAP = (if memop &&& MO_SIZE = MO_8 then 0 else memop &&& MO_BSWAP) := by
  obtain ⟨_, hal, _, e⟩ := tcg_canonicalize_memop_some T memop is64 true s s c hc
  simp only [if_true] at e
  obtain ⟨f1, f2, f3, f4, f5, f6, _, _⟩ := memop_clear_facts memop
  generalize hx : (if memop &&& MO_SIZE = MO_8 then memop &&& bnot 32 MO_BSWAP
    else if memop &&& MO_SIZE = MO_32 ∧ is64 = false then memop &&& bnot 32 MO_SIGN
    else memop) = x at e
  obtain ⟨k1, k2, k3, k4, k5, k6, _, _⟩ := memop_clear_facts x
  subst e
  rw [k3, k5, ← hx]
  by_cases h8 : memop &&& MO_SIZE = MO_8
  · simp only [if_pos h8]
    exact ⟨f4, f2⟩
  · simp only [if_neg h8]
    split
    · exact ⟨f3, f5⟩
    · exact ⟨rfl, rfl⟩

theorem tcg_gen_qemu_st_i64_sem (T : TCGTarget) {val addr n : Nat} (idx memop c : Nat)
    (inv : Bool) (hidx : idx < 16)
    (hc : ∀ s, tcg_canonicalize_memop T memop true true s = (some c, s))
    (hv : val + T.w64 ≤ n) (ha : addr + T.aw ≤ n) :
    Sem (tcg_gen_qemu_st_i64_with_checked_addr_cond_invalidate T val addr idx memop inv) n
      (fun m => { m with mem := (mem_st m.mem (T.ea m addr) c (m.get64 T val)) }) := by
  have haw := aw_pos T
  have hw1 := w64_pos T
  obtain ⟨hal, hcsz, hc8, _⟩ := canonical_st_i64_facts T memop c _ (hc (TCGContext.fresh 0))
  obtain ⟨b1, b2⟩ := canonical_st_bits T memop c true _ (hc (TCGContext.fresh 0))
  obtain ⟨f1, f2, f3, f4, f5, f6, _, _⟩ := memop_clear_facts c
  unfold tcg_gen_qemu_st_i64_with_checked_addr_cond_invalidate
  simp only []
  by_cases hA : ¬ T.reg64 = true ∧ memop &&& MO_SIZE < MO_64
  · rw [if_pos hA]
    have hT : T.reg64 = false := by simpa using hA.1
    have hw := w64_of_reg32 hT
    have hne : memop &&& MO_SIZE ≠ MO_64 := fun h => by rw [h] at hA; exact absurd hA.2 (by decide)
    obtain ⟨c32, hc32⟩ := canonical_st_of T memop false hal (fun _ => hne) (TCGContext.fresh 0)
    obtain ⟨a1, a2⟩ := canonical_st_bits T memop c32 false _ hc32
    have hc32' := tcg_canonicalize_memop_all T memop false true _ c32 (by rw [hc32])
    refine (@tcg_gen_qemu_st_i32_sem T (TCGV_LOW val) addr _ idx memop c32 inv hidx
      hc32' (by simp only [TCGV_LOW]; omega) ha).conseq (fun N _ m => ?_)
    refine ⟨?_, fun _ _ => rfl⟩
    show mem_st m.mem (T.ea m addr) c32 (m.regs val) = mem_st m.mem (T.ea m addr) c (m.get64 T val)
    refine mem_st_congr _ _ _ _ _ _ (by rw [a1, b1]) (by rw [a2, b2]) ?_
    rw [Machine.get64_of_reg32 hT]
    have hl : 8 * 2 ^ (c &&& MO_SIZE) ≤ 32 := by
      rw [hcsz]
      have := and_MO_SIZE memop
      have h3 : memop &&& MO_SIZE ≠ 3 := hne
      have : memop &&& MO_SIZE = 0 ∨ memop &&& MO_SIZE = 1 ∨ memop &&& MO_SIZE = 2 := by omega
      rcases this with e | e | e <;> rw [e] <;> norm_num
    have := pair64_mod_low (m.regs val) (m.regs (val + 1)) _ hl
    rw [Nat.mod_eq_of_lt (lt_of_lt_of_le (Nat.mod_lt _ (Nat.two_pow_pos _))
      (Nat.pow_le_pow_right (by norm_num) hl))] at this
    exact this.symm
  · rw [if_neg hA]
    have hG : ∀ (v d N : Nat), v + T.w64 ≤ N → ∀ x, Local N (fun m : Machine =>
        { m with mem := (mem_st m.mem x d (m.get64 T v)) }) := by
      intro v d N hvN x N' hN' m m' h
      refine ⟨?_, h.2⟩
      show mem_st m.mem x d (m.get64 T v) = mem_st m'.mem x d (m'.get64 T v)
      rw [h.1, (h.mono hN').get64 T hvN]
    have htail : ∀ (v d N : Nat), v + T.w64 ≤ N → n ≤ N → ∀ g, _ → Sem g N _ :=
      fun v d N hvN hN =>
      st_tail_sem_of T v idx d (T.trace_mem_get_info c idx true) inv .qemu_log_instr_store64
        (fun a => gen_ldst_i64 T .qemu_st_i64 v a d idx) (fun _ _ => rfl)
        (show addr + T.aw ≤ N by omega) (hG v d N hvN)
        (fun N' a hN' haN' => gen_ldst_i64_st_sem T d idx hidx haN' (by omega))
    refine Sem.bind_pre (tcg_gen_req_mo_sem T _ n) (Sem.bind_val c hc
      (Sem.bind_pre (trace_guest_mem_before_tcg_sem T _ _ n) ?_))
    by_cases hE : ¬T.TCG_TARGET_HAS_MEMORY_BSWAP = true ∧ c &&& MO_BSWAP ≠ 0
    swap
    · simp only [if_neg hE, Gen.pure_bind]
      exact htail val c n hv (le_refl _) _ rfl
    · simp only [if_pos hE, Gen.bind_assoc, Gen.pure_bind, Gen.ite_bind]
      have hsz : c &&& MO_SIZE = MO_16 ∨ c &&& MO_SIZE = MO_32 ∨ c &&& MO_SIZE = MO_64 := by
        have h0 : c &&& MO_SIZE ≠ MO_8 := fun h => hE.2 (hc8 h)
        have := and_MO_SIZE c
        simp only [show MO_8 = 0 from rfl, show MO_16 = 1 from rfl, show MO_32 = 2 from rfl,
          show MO_64 = 3 from rfl] at *
        omega
      have hL : Local n (fun m : Machine =>
          { m with mem := (mem_st m.mem (T.ea m addr) c (m.get64 T val)) }) := by
        intro N hN m m' h
        refine ⟨?_, h.2⟩
        show mem_st m.mem (T.ea m addr) c (m.get64 T val) =
          mem_st m'.mem (T.ea m' addr) c (m'.get64 T val)
        rw [h.1, (h.mono hN).ea T ha, (h.mono hN).get64 T hv]
      have hfr : ∀ (t X : Nat) (m : Machine), n ≤ t → Agree n (m.set64 T t X) m :=
        fun t X m ht => ⟨by simp, fun i hi => Machine.set64_regs_ne T m X (by omega)⟩
      rcases hsz with h16 | h32 | h64
      · simp only [if_pos h16]
        refine Sem.new64 T (fun t ht => Sem.bind
          (tcg_gen_ext16u_i64_sem T (r := t) (a := val) (n := t + T.w64) (by omega) (by omega))
          (Sem.bind (tcg_gen_bswap16_i64_sem T (r := t) (a := t) (n := t + T.w64) (by omega)
              (by omega) (Or.inl rfl))
            (htail t (c &&& bnot 32 MO_BSWAP) (t + T.w64) (by omega) (by omega) _
              (by simp only [Gen.bind_assoc, Gen.pure_bind])))) (fun t ht m => ?_) hL
        refine ⟨?_, fun i hi => ?_⟩
        swap
        · simp only [Function.comp]
          rw [Machine.set64_regs_ne T _ _ (by omega), Machine.set64_regs_ne T _ _ (by omega)]
        simp only [Function.comp, Machine.get64_set64_self, Machine.set64_mem]
        have hlt : m.get64 T val % 2 ^ 16 % 2 ^ 64 < 2 ^ 16 :=
          lt_of_le_of_lt (Nat.mod_le _ _) (Nat.mod_lt _ (by norm_num))
        rw [bswap16_path64 _ _ _ _ hlt]
        have e : T.ea ((m.set64 T t (m.get64 T val % 2 ^ 16)).set64 T t
            (bswap16 (m.get64 T val % 2 ^ 16 % 2 ^ 64))) addr = T.ea m addr :=
          ((hfr t _ _ ht).trans (hfr t _ m ht)).ea T ha
        rw [e]
        refine mem_st_swap16 _ _ c _ (m.get64 T val) _ h16 hE.2 f4 f2 ?_
        rw [Nat.mod_eq_of_lt (lt_trans (bswap16_lt _) (by norm_num)),
          Nat.mod_eq_of_lt (lt_trans (Nat.mod_lt _ (by norm_num)) (by norm_num))]
      · have h16 : ¬ c &&& MO_SIZE = MO_16 := by rw [h32]; decide
        simp only [if_neg h16, if_pos h32]
        refine Sem.new64 T (fun t ht => Sem.bind
          (tcg_gen_ext32u_i64_sem T (r := t) (a := val) (n := t + T.w64) (by omega) (by omega))
          (Sem.bind (tcg_gen_bswap32_i64_sem T (r := t) (a := t) (n := t + T.w64) (by omega)
              (by omega) (Or.inl rfl))
            (htail t (c &&& bnot 32 MO_BSWAP) (t + T.w64) (by omega) (by omega) _
              (by simp only [Gen.bind_assoc, Gen.pure_bind])))) (fun t ht m => ?_) hL
        refine ⟨?_, fun i hi => ?_⟩
        swap
        · simp only [Function.comp]
          rw [Machine.set64_regs_ne T _ _ (by omega), Machine.set64_regs_ne T _ _ (by omega)]
        simp only [Function.comp, Machine.get64_set64_self, Machine.set64_mem]
        have e : T.ea ((m.set64 T t (m.get64 T val % 2 ^ 32)).set64 T t
            (bswap32 (m.get64 T val % 2 ^ 32 % 2 ^ 64))) addr = T.ea m addr :=
          ((hfr t _ _ ht).trans (hfr t _ m ht)).ea T ha
        rw [e]
        refine mem_st_swap32 _ _ c _ (m.get64 T val) _ h32 hE.2 f4 f2 ?_
        rw [Nat.mod_eq_of_lt (lt_trans (bswap32_lt _) (by norm_num)),
          Nat.mod_eq_of_lt (lt_trans (Nat.mod_lt _ (by norm_num)) (by norm_num))]
      · have h16 : ¬ c &&& MO_SIZE = MO_16 := by rw [h64]; decide
        have h32 : ¬ c &&& MO_SIZE = MO_32 := by rw [h64]; decide
        simp only [if_neg h16, if_neg h32, if_pos h64]
        refine Sem.new64 T (fun t ht => Sem.bind
          (tcg_gen_bswap64_i64_sem T (r := t) (a := val) (n := t + T.w64) (by omega)
            (by omega) (by omega))
          (htail t (c &&& bnot 32 MO_BSWAP) (t + T.w64) (by omega) (by omega) _
            (by simp only [Gen.bind_assoc, Gen.pure_bind]))) (fun t ht m => ?_) hL
        refine ⟨?_, fun i hi => ?_⟩
        swap
        · simp only [Function.comp]
          rw [Machine.set64_regs_ne T _ _ (by omega)]
        simp only [Function.comp, Machine.get64_set64_self, Machine.set64_mem]
        have e : T.ea (m.set64 T t (bswap64 (m.get64 T val))) addr = T.ea m addr :=
          (hfr t _ m ht).ea T ha
        rw [e]
        refine mem_st_swap64 _ _ c _ (m.get64 T val) _ h64 hE.2 f4 f2 ?_
        rw [Nat.mod_eq_of_lt (bswap64_lt _), Nat.mod_eq_of_lt (Machine.get64_lt T m val)]



theorem minmax_sel_signed (w A B : Nat) :
    toInt w (if TCGCond.eval w .LT A B then A % 2 ^ w else B % 2 ^ w) =
      min (toInt w A) (toInt w B) ∧
    toInt w (if TCGCond.eval w .LT A B then B % 2 ^ w else A % 2 ^ w) =
      max (toInt w A) (toInt w B) := by
  simp only [TCGCond.eval, decide_eq_true_eq]
  constructor
  · split
    · rename_i h
      rw [toInt_mod, min_eq_left (le_of_lt h)]
    · rename_i h
      rw [toInt_mod, min_eq_right (not_lt.mp h)]
  · split
    · rename_i h
      rw [toInt_mod, max_eq_right (le_of_lt h)]
    · rename_i h
      rw [toInt_mod, max_eq_left (not_lt.mp h)]

theorem minmax_sel_unsigned (w A B : Nat) :
    (if TCGCond.eval w .LTU A B then A % 2 ^ w else B % 2 ^ w) = min (A % 2 ^ w) (B % 2 ^ w) ∧
    (if TCGCond.eval w .LTU A B then B % 2 ^ w else A % 2 ^ w) = max (A % 2 ^ w) (B % 2 ^ w) := by
  simp only [TCGCond.eval, decide_eq_true_eq]
  constructor
  · split
    · rename_i h
      rw [min_eq_left (le_of_lt h)]
    · rename_i h
      rw [min_eq_right (not_lt.mp h)]
  · split
    · rename_i h
      rw [max_eq_right (le_of_lt h)]
    · rename_i h
      rw [max_eq_left (not_lt.mp h)]

theorem xor_all_ones (w x : Nat) (hx : x < 2 ^ w) : x ^^^ (2 ^ w - 1) = 2 ^ w - 1 - x := by
  apply Nat.eq_of_testBit_eq; intro i
  have e : 2 ^ w - 1 - x = 2 ^ w - (x + 1) := by omega
  rw [e, Nat.testBit_two_pow_sub_succ hx, Nat.testBit_xor, Nat.testBit_two_pow_sub_one]
  rcases Nat.lt_or_ge i w with h | h
  · simp [h]
  · have : x.testBit i = false :=
      Nat.testBit_lt_two_pow (lt_of_lt_of_le hx (Nat.pow_le_pow_right (by norm_num) h))
    simp [this, Nat.not_lt.mpr h]

theorem sar_sign_32 (x : Nat) (hx : x < 2 ^ 32) :
    sar 32 x 31 = if 2 ^ 31 ≤ x then 2 ^ 32 - 1 else 0 := by
  have h := sar_sign_and 32 x (2 ^ 32 - 1) (by norm_num) (by norm_num) (testBit_31 x hx)
  rw [Nat.and_pow_two_sub_one_eq_mod, Nat.mod_eq_of_lt (sar_lt 32 x 31)] at h
  exact h

theorem sar_sign_64 (x : Nat) (hx : x < 2 ^ 64) :
    sar 64 x 63 = if 2 ^ 63 ≤ x then 2 ^ 64 - 1 else 0 := by
  have h := sar_sign_and 64 x (2 ^ 64 - 1) (by norm_num) (by norm_num) (testBit_63 x hx)
  rw [Nat.and_pow_two_sub_one_eq_mod, Nat.mod_eq_of_lt (sar_lt 64 x 63)] at h
  exact h

theorem abs_val_32 (x : Nat) (hx : x < 2 ^ 32) :
    ((x ^^^ sar 32 x 31) + 2 ^ 32 - sar 32 x 31) % 2 ^ 32 =
      if x < 2 ^ 31 then x else 2 ^ 32 - x := by
  rw [sar_sign_32 x hx]
  by_cases h : 2 ^ 31 ≤ x
  · rw [if_pos h, if_neg (by omega), xor_all_ones 32 x hx]
    norm_num only [] at *
    omega
  · rw [if_neg h, if_pos (by omega), Nat.xor_zero]
    norm_num only [] at *
    omega

theorem abs_val_64 (x : Nat) (hx : x < 2 ^ 64) :
    ((x ^^^ sar 64 x 63) + 2 ^ 64 - sar 64 x 63) % 2 ^ 64 =
      if x < 2 ^ 63 then x else 2 ^ 64 - x := by
  rw [sar_sign_64 x hx]
  by_cases h : 2 ^ 63 ≤ x
  · rw [if_pos h, if_neg (by omega), xor_all_ones 64 x hx]
    norm_num only [] at *
    omega
  · rw [if_neg h, if_pos (by omega), Nat.xor_zero]
    norm_num only [] at *
    omega

theorem tcg_gen_abs_i32_sem {r a n : Nat} (ha : a < n) (hr : r < n) :
    Sem (tcg_gen_abs_i32 r a) n (fun m => m.set r
      (((m.regs a % 2 ^ 32 ^^^ sar 32 (m.regs a % 2 ^ 32) 31) + 2 ^ 32 -
        sar 32 (m.regs a % 2 ^ 32) 31) % 2 ^ 32)) := by
  unfold tcg_gen_abs_i32
  refine Sem.new (Local.set_of r (fun m m' h => by rw [h.2 a ha])) (fun t ht =>
    Sem.bind (tcg_gen_sari_i32_sem (r := t) (a := a) (b := 31) (n := t + 1) (by norm_num)
      (by omega))
    (Sem.bind (tcg_gen_xor_i32_sem (r := r) (a := a) (b := t) (n := t + 1) (by omega) (by omega))
    (Sem.bind (tcg_gen_sub_i32_sem (r := r) (a := r) (b := t) (n := t + 1) (by omega) (by omega))
      (Sem.free t _)))) (fun t ht m => ?_)
  have d1 : r ≠ t := by omega
  have d2 : a ≠ t := by omega
  refine ⟨by simp [Machine.set, Function.comp], fun i hi => ?_⟩
  simp only [Function.comp, id, Machine.set_regs]
  have d3 : i ≠ t := by omega
  by_cases hi' : i = r
  · subst hi'
    simp only [if_true, d1, d2, d3, if_false, Nat.mod_eq_of_lt (sar_lt 32 _ 31)]
    have d4 : ¬ t = i := fun h => d1 h.symm
    rw [if_neg d4, Nat.mod_eq_of_lt (sar_lt 32 _ 31),
      Nat.mod_eq_of_lt (Nat.xor_lt_two_pow (Nat.mod_lt _ (by norm_num)) (sar_lt 32 _ 31))]
  · simp only [hi', d3, if_false]

theorem tcg_gen_abs_i64_sem (T : TCGTarget) {r a n : Nat} (ha : a + T.w64 ≤ n)
    (hr : r + T.w64 ≤ n) (hra : r = a ∨ r + T.w64 ≤ a ∨ a + T.w64 ≤ r) :
    Sem (tcg_gen_abs_i64 T r a) n (fun m => m.set64 T r
      (((m.get64 T a ^^^ sar 64 (m.get64 T a) 63) + 2 ^ 64 - sar 64 (m.get64 T a) 63) % 2 ^ 64)) := by
  have hw1 := w64_pos T
  unfold tcg_gen_abs_i64
  refine Sem.new64 T (fun t ht =>
    Sem.bind (tcg_gen_sari_i64_sem T (r := t) (a := a) (b := 63) (n := t + T.w64) (by norm_num)
      (by omega) (by omega) (by omega))
    (Sem.bind (tcg_gen_xor_i64_sem T (r := r) (a := a) (b := t) (n := t + T.w64) (by omega)
      (by omega) hra (by omega))
    (Sem.bind (tcg_gen_sub_i64_sem T (r := r) (a := r) (b := t) (n := t + T.w64) (by omega)
      (by omega)) (Sem.free64 t _)))) (fun t ht m => ?_)
    (Local.set64_1 T r (fun x => ((x ^^^ sar 64 x 63) + 2 ^ 64 - sar 64 x 63) % 2 ^ 64) ha)
  simp only [Function.comp, id]
  simp (disch := omega) only [Machine.get64_set64_self, Machine.get64_set64_ne,
    Machine.set64_regs_ne]
  refine Agree.of_set64 T (by simp) ?_ (fun i hi hne => ?_)
  · rw [Nat.mod_eq_of_lt (sar_lt 64 _ 63),
      Nat.mod_eq_of_lt (Nat.xor_lt_two_pow (Machine.get64_lt T m a) (sar_lt 64 _ 63))]
  · simp (disch := omega) only [Machine.set64_regs_ne]

theorem extract2_64_eq_deposit_shr (lo hi c : Nat) (h1 : 0 < c) (h2 : c < 64) :
    deposit 64 ((lo % 2 ^ 64) >>> c) hi (64 - c) c = extract2 64 lo hi c := by
  apply Nat.eq_of_testBit_eq; intro i
  simp only [Nat.testBit_mod_two_pow, Nat.testBit_shiftRight, testBit_extract2, testBit_deposit]
  rcases Nat.lt_or_ge i 64 with h | h
  · rcases Nat.lt_or_ge (c + i) 64 with h' | h'
    · simp (disch := omega) only [decide_eq_true, decide_eq_false, Bool.and_true,
        Bool.true_and, Bool.false_and, Bool.and_false, Bool.or_false, Bool.false_or,
        Bool.not_true, Bool.not_false]
    · simp (disch := omega) only [decide_eq_true, decide_eq_false, Bool.and_true,
        Bool.true_and, Bool.false_and, Bool.and_false, Bool.or_false, Bool.false_or,
        Bool.not_true, Bool.not_false]
      congr 1; omega
  · simp (disch := omega) only [decide_eq_true, decide_eq_false, Bool.and_true,
      Bool.true_and, Bool.false_and, Bool.and_false, Bool.or_false, Bool.false_or]

/-- Every path of `tcg_gen_extract2_i32`. -/
theorem tcg_gen_extract2_i32_sem (T : TCGTarget) {r u v n o : Nat}
    (hl : u < n) (hh : v < n) (hr : r < n) (ho : o ≤ 32) :
    Sem (tcg_gen_extract2_i32 T r u v o) n
      (fun m => m.set r (extract2 32 (m.regs u) (m.regs v) o)) := by
  by_cases hc : o = 0 ∨ o = 32 ∨ u = v ∨ T.TCG_TARGET_HAS_extract2_i32 = true
  · exact tcg_gen_extract2_i32_sem_native T hl hh ho hc
  · simp only [not_or] at hc
    obtain ⟨c0, c1, c2, c3⟩ := hc
    unfold tcg_gen_extract2_i32
    refine Sem.assert (by simpa using ho) ?_
    beta_reduce
    rw [if_neg c0, if_neg c1, if_neg c2, dif_neg c3]
    refine Sem.new (Local.set2 r (fun x y => extract2 32 x y o) hl hh) (fun t ht =>
      Sem.bind (tcg_gen_shri_i32_sem (r := t) (a := u) (b := o) (n := t + 1) (by omega)
        (by omega))
      (Sem.bind (tcg_gen_deposit_i32_sem T (r := r) (a := t) (b := v) (o := 32 - o) (l := o)
        (n := t + 1) (by omega) (by omega) (by omega) (by omega) (by omega) (by omega))
        (Sem.free t _))) (fun t ht m => ?_)
    have d1 : r ≠ t := by omega
    have d2 : v ≠ t := by omega
    refine ⟨by simp [Machine.set, Function.comp], fun i hi => ?_⟩
    simp only [Function.comp, id, Machine.set_regs]
    have d3 : i ≠ t := by omega
    by_cases hi' : i = r
    · subst hi'
      simp only [if_true, d2, if_false]
      exact extract2_eq_deposit_shr _ _ o (by omega) (by omega)
    · simp only [hi', d3, if_false]

/-- Every path of `tcg_gen_extract2_i64`. -/
theorem tcg_gen_extract2_i64_sem (T : TCGTarget) {r u v n o : Nat}
    (hl : u + T.w64 ≤ n) (hh : v + T.w64 ≤ n) (hr : r + T.w64 ≤ n) (ho : o ≤ 64)
    (hrl : r = u ∨ r + T.w64 ≤ u ∨ u + T.w64 ≤ r)
    (hrh : r = v ∨ r + T.w64 ≤ v ∨ v + T.w64 ≤ r) :
    Sem (tcg_gen_extract2_i64 T r u v o) n
      (fun m => m.set64 T r (extract2 64 (m.get64 T u) (m.get64 T v) o)) := by
  have hw1 := w64_pos T
  by_cases hx : T.TCG_TARGET_HAS_extract2_i64 = true
  · exact tcg_gen_extract2_i64_sem_native T hx hl hh hr ho hrl hrh
  unfold tcg_gen_extract2_i64
  refine Sem.assert (by simpa using ho) ?_
  beta_reduce
  split_ifs with c0 c1 c2
  · subst c0
    refine (tcg_gen_mov_i64_sem T hl hrl).conseq (fun N _ m => ?_)
    rw [← extract2_64_zero _ _ (Machine.get64_lt T m u)]
    exact Agree.refl _ _
  · subst c1
    refine (tcg_gen_mov_i64_sem T hh hrh).conseq (fun N _ m => ?_)
    rw [← extract2_64_full _ _ (Machine.get64_lt T m v)]
    exact Agree.refl _ _
  · subst c2
    refine (tcg_gen_rotri_i64_sem T (show o < 64 by omega) hl hr hrl).conseq
      (fun N _ m => ?_)
    rw [extract2_64_same _ _ (show o < 64 by omega)]
    exact Agree.refl _ _
  · refine Sem.new64 T (fun t ht =>
      Sem.bind (tcg_gen_shri_i64_sem T (r := t) (a := u) (b := o) (n := t + T.w64) (by omega)
        (by omega) (by omega) (by omega))
      (Sem.bind (tcg_gen_deposit_i64_sem T (r := r) (a := t) (b := v) (o := 64 - o) (l := o)
        (n := t + T.w64) (by omega) (by omega) (by omega) (by omega) hrh (by omega) (by omega)
        (by omega))
        (Sem.free64 t _))) (fun t ht m => ?_) (Local.set64_2 T r (fun x y => extract2 64 x y o) hl hh)
    simp only [Function.comp, id]
    simp (disch := omega) only [Machine.get64_set64_self, Machine.get64_set64_ne,
      Machine.set64_regs_ne]
    refine Agree.of_set64 T (by simp) ?_ (fun i hi hne => ?_)
    · have hu := Machine.get64_lt T m u
      have hs : (m.get64 T u) >>> o < 2 ^ 64 := by
        rw [Nat.shiftRight_eq_div_pow]
        exact Nat.lt_of_le_of_lt (Nat.div_le_self _ _) hu
      rw [Nat.mod_eq_of_lt hs, Nat.mod_eq_of_lt (extract2_lt _ _ _ _)]
      have := extract2_64_eq_deposit_shr (m.get64 T u) (m.get64 T v) o (by omega) (by omega)
      rw [Nat.mod_eq_of_lt hu] at this
      rw [this, Nat.mod_eq_of_lt (extract2_lt _ _ _ _)]
    · simp (disch := omega) only [Machine.set64_regs_ne]

theorem testBit_of_lt32 {x i : Nat} (hx : x < 2 ^ 32) (hi : 32 ≤ i) : x.testBit i = false :=
  Nat.testBit_lt_two_pow (lt_of_lt_of_le hx (Nat.pow_le_pow_right (by norm_num) hi))

theorem extract2_32_zero (x y : Nat) (hx : x < 2 ^ 32) : x = extract2 32 x y 0 := by
  apply Nat.eq_of_testBit_eq; intro i
  simp only [testBit_extract2, Nat.zero_add]
  rcases Nat.lt_or_ge i 32 with hi | hi
  · simp (disch := omega) only [decide_eq_true, decide_eq_false, Bool.and_true,
      Bool.true_and, Bool.false_and, Bool.and_false, Bool.or_false, Bool.false_or]
  · simp (disch := omega) only [decide_eq_true, decide_eq_false, Bool.and_true,
      Bool.true_and, Bool.false_and, Bool.and_false, Bool.or_false, Bool.false_or,
      testBit_of_lt32 hx hi]

theorem extract2_32_full (x y : Nat) (hy : y < 2 ^ 32) : y = extract2 32 x y 32 := by
  apply Nat.eq_of_testBit_eq; intro i
  simp only [testBit_extract2]
  rcases Nat.lt_or_ge i 32 with hi | hi
  · simp (disch := omega) only [decide_eq_true, decide_eq_false, Bool.and_true,
      Bool.true_and, Bool.false_and, Bool.and_false, Bool.or_false, Bool.false_or]
    congr 1; omega
  · simp (disch := omega) only [decide_eq_true, decide_eq_false, Bool.and_true,
      Bool.true_and, Bool.false_and, Bool.and_false, Bool.or_false, Bool.false_or,
      testBit_of_lt32 hy hi]

theorem extract2_32_same (x o : Nat) (ho : o < 32) :
    rotr 32 x o = extract2 32 x x o := by
  apply Nat.eq_of_testBit_eq; intro i
  simp only [testBit_extract2, testBit_rotr 32 _ o i ho]
  rcases Nat.lt_or_ge i 32 with hi | hi
  · rcases Nat.lt_or_ge (o + i) 32 with hj | hj
    · simp (disch := omega) only [decide_eq_true, decide_eq_false, Bool.and_true,
        Bool.true_and, Bool.false_and, Bool.and_false, Bool.or_false, Bool.false_or]
    · simp (disch := omega) only [decide_eq_true, decide_eq_false, Bool.and_true,
        Bool.true_and, Bool.false_and, Bool.and_false, Bool.or_false, Bool.false_or]
      congr 1; omega
  · simp (disch := omega) only [decide_eq_true, decide_eq_false, Bool.and_true,
      Bool.true_and, Bool.false_and, Bool.and_false, Bool.or_false, Bool.false_or]

theorem shifts_in_range_append (a b : List TCGOp) (m : Machine) :
    shifts_in_range (a ++ b) m = (shifts_in_range a m && shifts_in_range b (run a m)) := by
  induction a generalizing m with
  | nil => simp [shifts_in_range, run]
  | cons op ops ih =>
    show (_ && shifts_in_range (ops ++ b) (exec_op op m)) = _
    rw [ih]
    simp only [shifts_in_range, Bool.and_assoc]
    rfl

theorem TCGContext.extend_ops_inj {s : TCGContext} {a b : List TCGOp} {j k : Nat}
    (h : s.extend a j = s.extend b k) : a = b := by
  have := congrArg TCGContext.ops h
  simpa [TCGContext.extend] using this

theorem ShiftRange.bind_shift {g1 : Gen Unit} {k : Unit → Gen Unit} {n : Nat}
    {F : Machine → Machine} {φ χ ψ : Machine → Bool}
    (h1 : Sem g1 n F) (s1 : ShiftRange g1 n φ) (s2 : ShiftRange (k ()) n χ)
    (hQ : ∀ N, n ≤ N → ∀ m m', Agree N m' (F m) → χ m' = ψ m) :
    ShiftRange (g1 >>= k) n (fun m => φ m && ψ m) := by
  intro s hs
  obtain ⟨δ1, k1, e1, r1⟩ := h1.2 s hs
  obtain ⟨δ1', k1', e1', p1⟩ := s1 s hs
  have hδ : δ1' = δ1 := by
    rw [e1] at e1'
    exact (TCGContext.extend_ops_inj (congrArg Prod.snd e1')).symm
  subst hδ
  obtain ⟨δ2, k2, e2, p2⟩ := s2 (s.extend δ1' k1) (by simp only [TCGContext.extend]; omega)
  refine ⟨δ1' ++ δ2, k1 + k2, ?_, fun m => ?_⟩
  · rw [Gen.bind_apply, e1, Gen.andThen_some, e2, TCGContext.extend_extend]
  · rw [shifts_in_range_append, p1 m, p2, hQ _ hs m _ (r1 m)]

theorem ShiftRange.pure_shift (n : Nat) : ShiftRange (pure ()) n (fun _ => true) := by
  intro s hs
  exact ⟨[], 0, by simp [TCGContext.extend]; rfl, fun m => rfl⟩

theorem ShiftRange.congr {g : Gen Unit} {n : Nat} {φ φ' : Machine → Bool}
    (h : ShiftRange g n φ) (hφ : ∀ m, φ m = φ' m) : ShiftRange g n φ' := by
  intro s hs
  obtain ⟨δ, k, e, p⟩ := h s hs
  exact ⟨δ, k, e, fun m => (p m).trans (hφ m)⟩

/-- The tail of an emitter that performs no shift. -/
theorem ShiftRange.bind_none {g1 : Gen Unit} {k : Unit → Gen Unit} {n : Nat}
    {F : Machine → Machine}
    (h1 : Sem g1 n F) (s1 : ShiftRange g1 n (fun _ => true))
    (s2 : ShiftRange (k ()) n (fun _ => true)) :
    ShiftRange (g1 >>= k) n (fun _ => true) :=
  (ShiftRange.bind_shift (ψ := fun _ => true) h1 s1 s2 (fun _ _ _ _ _ => rfl)).congr (fun _ => rfl)

theorem ShiftRange.new2_shift {body : TCGv_i32 → TCGv_i32 → Gen Unit} {n : Nat}
    {φ : Machine → Bool}
    (h : ∀ t, n ≤ t → ShiftRange (body t (t + 1)) (t + 2) φ) :
    ShiftRange (tcg_temp_new_i32 >>= fun t0 => tcg_temp_new_i32 >>= fun t1 => body t0 t1)
      n φ := by
  intro s hs
  obtain ⟨δ, k, e, p⟩ := h s.nb_temps hs { s with nb_temps := s.nb_temps + 2 } (le_refl _)
  refine ⟨δ, 2 + k, ?_, p⟩
  rw [Gen.bind_apply]
  simp only [tcg_temp_new_i32, Gen.andThen_some, Gen.bind_apply]
  rw [e]
  simp only [TCGContext.extend, Nat.add_assoc]

theorem ShiftRange.new64_2_shift (T : TCGTarget) {body : TCGv_i64 → TCGv_i64 → Gen Unit} {n : Nat}
    {φ : Machine → Bool}
    (h : ∀ t, n ≤ t → ShiftRange (body t (t + T.w64)) (t + T.w64 + T.w64) φ) :
    ShiftRange (tcg_temp_new_i64 T >>= fun t0 => tcg_temp_new_i64 T >>= fun t1 => body t0 t1)
      n φ := by
  intro s hs
  obtain ⟨δ, k, e, p⟩ := h s.nb_temps hs
    { s with nb_temps := s.nb_temps + T.w64 + T.w64 } (le_refl _)
  refine ⟨δ, T.w64 + T.w64 + k, ?_, p⟩
  rw [Gen.bind_apply]
  simp only [tcg_temp_new_i64, Gen.andThen_some, Gen.bind_apply]
  rw [e]
  simp only [TCGContext.extend, Nat.add_assoc]

theorem ShiftRange.emit_shift (opc : TCGOpcode) (args : List TCGArg) (n : Nat) (φ : Machine → Bool)
    (h : ∀ m, shifts_in_range [⟨opc, args⟩] m = φ m) :
    ShiftRange (tcg_emit_op opc args) n φ := by
  intro s hs
  exact ⟨[⟨opc, args⟩], 0, rfl, h⟩

theorem tcg_gen_shl_i32_shifts (r a b n : Nat) :
    ShiftRange (tcg_gen_shl_i32 r a b) n (fun m => decide (m.regs b % 2 ^ 32 < 32)) :=
  ShiftRange.emit_shift _ _ _ _ (fun m => by
    simp only [shifts_in_range, shift_amount, List.getD_cons_succ, List.getD_cons_zero,
      Bool.and_true])

theorem tcg_gen_shr_i32_shifts (r a b n : Nat) :
    ShiftRange (tcg_gen_shr_i32 r a b) n (fun m => decide (m.regs b % 2 ^ 32 < 32)) :=
  ShiftRange.emit_shift _ _ _ _ (fun m => by
    simp only [shifts_in_range, shift_amount, List.getD_cons_succ, List.getD_cons_zero,
      Bool.and_true])

theorem tcg_gen_or_i32_shifts (r a b n : Nat) :
    ShiftRange (tcg_gen_or_i32 r a b) n (fun _ => true) :=
  ShiftRange.emit_shift _ _ _ _ (fun m => rfl)

theorem tcg_gen_subfi_i32_shifts (T : TCGTarget) (r c a n : Nat) (hc : c ≠ 0) :
    ShiftRange (tcg_gen_subfi_i32 T r c a) n (fun _ => true) := by
  intro s hs
  refine ⟨[⟨.movi_i32, [s.nb_temps, c]⟩, ⟨.sub_i32, [r, s.nb_temps, a]⟩], 1, ?_, fun m => rfl⟩
  unfold tcg_gen_subfi_i32
  rw [if_neg (fun h => hc h.1)]
  simp [Gen.bind_apply, tcg_const_i32, tcg_temp_new_i32, tcg_gen_movi_i32, tcg_gen_op2,
    tcg_emit_op, Gen.andThen, tcg_gen_sub_i32, tcg_gen_op3, tcg_temp_free_i32,
    TCGContext.extend, List.append_assoc]
  rfl

theorem shr_mod_of_lt (w x k : Nat) (hx : x < 2 ^ w) : (x >>> k) % 2 ^ w = x >>> k := by
  apply Nat.mod_eq_of_lt
  rw [Nat.shiftRight_eq_div_pow]
  exact Nat.lt_of_le_of_lt (Nat.div_le_self _ _) hx

theorem tcg_gen_rotl_i32_sem_fallback (T : TCGTarget) {r a b n : Nat}
    (h : T.TCG_TARGET_HAS_rot_i32 = false) (ha : a < n) (hb : b < n) :
    Sem (tcg_gen_rotl_i32 T r a b) n
      (fun m => m.set r ((((m.regs a % 2 ^ 32) <<< (m.regs b % 2 ^ 32)) % 2 ^ 32) |||
        ((m.regs a % 2 ^ 32) >>> ((32 + 2 ^ 32 - m.regs b % 2 ^ 32) % 2 ^ 32)))) := by
  unfold tcg_gen_rotl_i32
  simp only [h, Bool.false_eq_true, if_false]
  refine Sem.new2 (Local.set2 r (fun x y => (((x % 2 ^ 32) <<< (y % 2 ^ 32)) % 2 ^ 32) |||
        ((x % 2 ^ 32) >>> ((32 + 2 ^ 32 - y % 2 ^ 32) % 2 ^ 32))) ha hb) (fun t ht =>
      Sem.bind (tcg_gen_shl_i32_sem (r := t) (a := a) (b := b) (n := t + 2) (by omega)
        (by omega))
      (Sem.bind (tcg_gen_subfi_i32_sem T (r := t + 1) (a := b) (n := t + 2) 32 (by omega))
      (Sem.bind (tcg_gen_shr_i32_sem (r := t + 1) (a := a) (b := t + 1) (n := t + 2)
        (by omega) (by omega))
      (Sem.bind (tcg_gen_or_i32_sem (r := r) (show t < t + 2 by omega)
        (show t + 1 < t + 2 by omega))
      (Sem.bind (Sem.free t _) (Sem.free (t + 1) _)))))) (fun t ht m => ?_)
  refine Agree.of_set rfl ?_ (fun i hi hne => ?_)
  · simp (disch := omega) only [Function.comp, id, Machine.set_regs_self,
      Machine.set_regs_ne]
    rw [Nat.mod_mod, Nat.mod_mod, show (32 : Nat) % 2 ^ 32 = 32 by norm_num,
      shr_mod_of_lt 32 _ _ (Nat.mod_lt _ (by norm_num))]
  · simp (disch := omega) only [Function.comp, id, Machine.set_regs_ne]

theorem tcg_gen_rotr_i32_sem_fallback (T : TCGTarget) {r a b n : Nat}
    (h : T.TCG_TARGET_HAS_rot_i32 = false) (ha : a < n) (hb : b < n) :
    Sem (tcg_gen_rotr_i32 T r a b) n
      (fun m => m.set r (((m.regs a % 2 ^ 32) >>> (m.regs b % 2 ^ 32)) |||
        (((m.regs a % 2 ^ 32) <<< ((32 + 2 ^ 32 - m.regs b % 2 ^ 32) % 2 ^ 32)) % 2 ^ 32))) := by
  unfold tcg_gen_rotr_i32
  simp only [h, Bool.false_eq_true, if_false]
  refine Sem.new2 (Local.set2 r (fun x y => ((x % 2 ^ 32) >>> (y % 2 ^ 32)) |||
        (((x % 2 ^ 32) <<< ((32 + 2 ^ 32 - y % 2 ^ 32) % 2 ^ 32)) % 2 ^ 32)) ha hb) (fun t ht =>
      Sem.bind (tcg_gen_shr_i32_sem (r := t) (a := a) (b := b) (n := t + 2) (by omega)
        (by omega))
      (Sem.bind (tcg_gen_subfi_i32_sem T (r := t + 1) (a := b) (n := t + 2) 32 (by omega))
      (Sem.bind (tcg_gen_shl_i32_sem (r := t + 1) (a := a) (b := t + 1) (n := t + 2)
        (by omega) (by omega))
      (Sem.bind (tcg_gen_or_i32_sem (r := r) (show t < t + 2 by omega)
        (show t + 1 < t + 2 by omega))
      (Sem.bind (Sem.free t _) (Sem.free (t + 1) _)))))) (fun t ht m => ?_)
  refine Agree.of_set rfl ?_ (fun i hi hne => ?_)
  · simp (disch := omega) only [Function.comp, id, Machine.set_regs_self,
      Machine.set_regs_ne]
    rw [Nat.mod_mod, Nat.mod_mod, show (32 : Nat) % 2 ^ 32 = 32 by norm_num,
      shr_mod_of_lt 32 _ _ (Nat.mod_lt _ (by norm_num))]
  · simp (disch := omega) only [Function.comp, id, Machine.set_regs_ne]


theorem tcg_gen_rotl_i32_shifts (T : TCGTarget) {r a b n : Nat}
    (h : T.TCG_TARGET_HAS_rot_i32 = false) (ha : a < n) (hb : b < n) :
    ShiftRange (tcg_gen_rotl_i32 T r a b) n
      (fun m => decide (m.regs b % 2 ^ 32 < 32) &&
        decide ((32 + 2 ^ 32 - m.regs b % 2 ^ 32) % 2 ^ 32 < 32)) := by
  unfold tcg_gen_rotl_i32
  simp only [h, Bool.false_eq_true, if_false]
  refine ShiftRange.new2_shift (fun t ht => ?_)
  refine ShiftRange.bind_shift
    (tcg_gen_shl_i32_sem (r := t) (a := a) (b := b) (n := t + 2) (by omega) (by omega))
    (tcg_gen_shl_i32_shifts t a b (t + 2))
    (χ := fun m => decide ((32 + 2 ^ 32 - m.regs b % 2 ^ 32) % 2 ^ 32 < 32)) ?_
    (fun N hN m m' hA => ?_)
  · refine (ShiftRange.bind_shift (ψ := fun m => decide ((32 + 2 ^ 32 - m.regs b % 2 ^ 32) % 2 ^ 32 < 32))
      (tcg_gen_subfi_i32_sem T (r := t + 1) (a := b) (n := t + 2) 32 (by omega))
      (tcg_gen_subfi_i32_shifts T (t + 1) 32 b (t + 2) (by norm_num))
      (χ := fun m => decide (m.regs (t + 1) % 2 ^ 32 < 32)) ?_
      (fun N hN m m' hA => ?_)).congr (fun m => Bool.true_and _)
    · refine (ShiftRange.bind_shift (ψ := fun _ => true)
        (tcg_gen_shr_i32_sem (r := t + 1) (a := a) (b := t + 1) (n := t + 2) (by omega)
          (by omega))
        (tcg_gen_shr_i32_shifts (t + 1) a (t + 1) (t + 2)) (χ := fun _ => true) ?_
        (fun _ _ _ _ _ => rfl)).congr (fun m => Bool.and_true _)
      refine ShiftRange.bind_none
        (tcg_gen_or_i32_sem (r := r) (show t < t + 2 by omega) (show t + 1 < t + 2 by omega))
        (tcg_gen_or_i32_shifts r t (t + 1) (t + 2)) ?_
      exact ShiftRange.bind_none (Sem.free t _) (ShiftRange.pure_shift _) (ShiftRange.pure_shift _)
    · have := hA.2 (t + 1) (by omega)
      rw [Machine.set_regs_self] at this
      simp only [this, Nat.mod_mod]
      rfl
  · have := hA.2 b (by omega)
    rw [Machine.set_regs_ne _ _ (by omega)] at this
    simp only [this]

theorem tcg_gen_rotr_i32_shifts (T : TCGTarget) {r a b n : Nat}
    (h : T.TCG_TARGET_HAS_rot_i32 = false) (ha : a < n) (hb : b < n) :
    ShiftRange (tcg_gen_rotr_i32 T r a b) n
      (fun m => decide (m.regs b % 2 ^ 32 < 32) &&
        decide ((32 + 2 ^ 32 - m.regs b % 2 ^ 32) % 2 ^ 32 < 32)) := by
  unfold tcg_gen_rotr_i32
  simp only [h, Bool.false_eq_true, if_false]
  refine ShiftRange.new2_shift (fun t ht => ?_)
  refine ShiftRange.bind_shift
    (tcg_gen_shr_i32_sem (r := t) (a := a) (b := b) (n := t + 2) (by omega) (by omega))
    (tcg_gen_shr_i32_shifts t a b (t + 2))
    (χ := fun m => decide ((32 + 2 ^ 32 - m.regs b % 2 ^ 32) % 2 ^ 32 < 32)) ?_
    (fun N hN m m' hA => ?_)
  · refine (ShiftRange.bind_shift (ψ := fun m => decide ((32 + 2 ^ 32 - m.regs b % 2 ^ 32) % 2 ^ 32 < 32))
      (tcg_gen_subfi_i32_sem T (r := t + 1) (a := b) (n := t + 2) 32 (by omega))
      (tcg_gen_subfi_i32_shifts T (t + 1) 32 b (t + 2) (by norm_num))
      (χ := fun m => decide (m.regs (t + 1) % 2 ^ 32 < 32)) ?_
      (fun N hN m m' hA => ?_)).congr (fun m => Bool.true_and _)
    · refine (ShiftRange.bind_shift (ψ := fun _ => true)
        (tcg_gen_shl_i32_sem (r := t + 1) (a := a) (b := t + 1) (n := t + 2) (by omega)
          (by omega))
        (tcg_gen_shl_i32_shifts (t + 1) a (t + 1) (t + 2)) (χ := fun _ => true) ?_
        (fun _ _ _ _ _ => rfl)).congr (fun m => Bool.and_true _)
      refine ShiftRange.bind_none
        (tcg_gen_or_i32_sem (r := r) (show t < t + 2 by omega) (show t + 1 < t + 2 by omega))
        (tcg_gen_or_i32_shifts r t (t + 1) (t + 2)) ?_
      exact ShiftRange.bind_none (Sem.free t _) (ShiftRange.pure_shift _) (ShiftRange.pure_shift _)
    · have := hA.2 (t + 1) (by omega)
      rw [Machine.set_regs_self] at this
      simp only [this, Nat.mod_mod]
      rfl
  · have := hA.2 b (by omega)
    rw [Machine.set_regs_ne _ _ (by omega)] at this
    simp only [this]

theorem tcg_gen_shl_i64_shifts (T : TCGTarget) (r a b n : Nat) :
    ShiftRange (tcg_gen_shl_i64 T r a b) n (fun m => decide (m.get64 T b < 64)) := by
  unfold tcg_gen_shl_i64 gen_helper_i64 tcg_gen_callN tcg_gen_op3
  cases hT : T.reg64
  · simp only [Bool.false_eq_true, if_false]
    refine ShiftRange.emit_shift _ _ _ _ (fun m => ?_)
    rw [Machine.get64_of_reg32 hT]
    simp [shifts_in_range, shift_amount, TCGV_LOW, TCGV_HIGH]
  · simp only [if_true]
    refine ShiftRange.emit_shift _ _ _ _ (fun m => ?_)
    rw [Machine.get64_of_reg64 hT]
    simp [shifts_in_range, shift_amount]

theorem tcg_gen_shr_i64_shifts (T : TCGTarget) (r a b n : Nat) :
    ShiftRange (tcg_gen_shr_i64 T r a b) n (fun m => decide (m.get64 T b < 64)) := by
  unfold tcg_gen_shr_i64 gen_helper_i64 tcg_gen_callN tcg_gen_op3
  cases hT : T.reg64
  · simp only [Bool.false_eq_true, if_false]
    refine ShiftRange.emit_shift _ _ _ _ (fun m => ?_)
    rw [Machine.get64_of_reg32 hT]
    simp [shifts_in_range, shift_amount, TCGV_LOW, TCGV_HIGH]
  · simp only [if_true]
    refine ShiftRange.emit_shift _ _ _ _ (fun m => ?_)
    rw [Machine.get64_of_reg64 hT]
    simp [shifts_in_range, shift_amount]

theorem tcg_gen_or_i64_shifts (T : TCGTarget) (r a b n : Nat) :
    ShiftRange (tcg_gen_or_i64 T r a b) n (fun _ => true) := by
  intro s hs
  unfold tcg_gen_or_i64
  cases hT : T.reg64
  · refine ⟨[⟨.or_i32, [TCGV_LOW r, TCGV_LOW a, TCGV_LOW b]⟩,
      ⟨.or_i32, [TCGV_HIGH r, TCGV_HIGH a, TCGV_HIGH b]⟩], 0, ?_, fun m => rfl⟩
    simp [Gen.bind_apply, tcg_gen_or_i32, tcg_gen_op3, tcg_emit_op, Gen.andThen,
      TCGContext.extend, List.append_assoc]
  · refine ⟨[⟨.or_i64, [r, a, b]⟩], 0, ?_, fun m => rfl⟩
    simp [tcg_gen_op3, tcg_emit_op, TCGContext.extend]

theorem tcg_gen_subfi_i64_shifts (T : TCGTarget) (r c a n : Nat) (hc : c ≠ 0) :
    ShiftRange (tcg_gen_subfi_i64 T r c a) n (fun _ => true) := by
  intro s hs
  unfold tcg_gen_subfi_i64
  rw [if_neg (fun h => hc h.1)]
  cases hT : T.reg64
  · refine ⟨[⟨.movi_i32, [TCGV_LOW s.nb_temps, c]⟩,
      ⟨.movi_i32, [TCGV_HIGH s.nb_temps, c >>> 32]⟩,
      ⟨.sub2_i32, [TCGV_LOW r, TCGV_HIGH r, TCGV_LOW s.nb_temps, TCGV_HIGH s.nb_temps,
        TCGV_LOW a, TCGV_HIGH a]⟩], T.w64, ?_, fun m => rfl⟩
    simp [Gen.bind_apply, tcg_const_i64, tcg_temp_new_i64, tcg_gen_movi_i64, tcg_gen_movi_i32,
      tcg_gen_op2, tcg_emit_op, Gen.andThen, tcg_gen_sub_i64, tcg_gen_op6, tcg_temp_free_i64,
      TCGContext.extend, List.append_assoc, hT]
    rfl
  · refine ⟨[⟨.movi_i64, [s.nb_temps, c]⟩, ⟨.sub_i64, [r, s.nb_temps, a]⟩], T.w64, ?_,
      fun m => rfl⟩
    simp [Gen.bind_apply, tcg_const_i64, tcg_temp_new_i64, tcg_gen_movi_i64,
      tcg_gen_op2, tcg_emit_op, Gen.andThen, tcg_gen_sub_i64, tcg_gen_op3, tcg_temp_free_i64,
      TCGContext.extend, List.append_assoc, hT]
    rfl

theorem tcg_gen_rotl_i64_sem_fallback (T : TCGTarget) {r a b n : Nat}
    (h : T.TCG_TARGET_HAS_rot_i64 = false) (ha : a + T.w64 ≤ n) (hb : b + T.w64 ≤ n)
    (hr : r + T.w64 ≤ n) :
    Sem (tcg_gen_rotl_i64 T r a b) n
      (fun m => m.set64 T r (((m.get64 T a <<< m.get64 T b) % 2 ^ 64) |||
        (m.get64 T a >>> ((64 + 2 ^ 64 - m.get64 T b) % 2 ^ 64)))) := by
  have hw1 := w64_pos T
  unfold tcg_gen_rotl_i64
  simp only [h, Bool.false_eq_true, if_false]
  refine Sem.new64_2 T (fun t ht => Sem.bind
      (tcg_gen_shl_i64_sem T (r := t) (a := a) (b := b) (n := t + T.w64 + T.w64) (by omega)
        (by omega))
      (Sem.bind (tcg_gen_subfi_i64_sem T (r := t + T.w64) (a := b) (n := t + T.w64 + T.w64) 64
        (by omega))
      (Sem.bind (tcg_gen_shr_i64_sem T (r := t + T.w64) (a := a) (b := t + T.w64)
        (n := t + T.w64 + T.w64) (by omega) (by omega))
      (Sem.bind (tcg_gen_or_i64_sem T (r := r) (a := t) (b := t + T.w64)
        (n := t + T.w64 + T.w64) (by omega) (by omega) (by omega) (by omega))
      (Sem.bind (Sem.pure _) (Sem.pure _)))))) (fun t ht m => ?_)
      (Local.set64_2 T r (fun x y => ((x <<< y) % 2 ^ 64) |||
        (x >>> ((64 + 2 ^ 64 - y) % 2 ^ 64))) ha hb)
  simp only [Function.comp, id]
  simp (disch := omega) only [Machine.get64_set64_self, Machine.get64_set64_ne]
  refine Agree.of_set64 T (by simp) ?_ (fun i hi hne => ?_)
  · congr 1
    rw [Nat.mod_mod, Nat.mod_mod, show (64 : Nat) % 2 ^ 64 = 64 by norm_num,
      shr_mod_of_lt 64 _ _ (Machine.get64_lt T m a)]
  · simp (disch := omega) only [Machine.set64_regs_ne]

theorem tcg_gen_rotr_i64_sem_fallback (T : TCGTarget) {r a b n : Nat}
    (h : T.TCG_TARGET_HAS_rot_i64 = false) (ha : a + T.w64 ≤ n) (hb : b + T.w64 ≤ n)
    (hr : r + T.w64 ≤ n) :
    Sem (tcg_gen_rotr_i64 T r a b) n
      (fun m => m.set64 T r ((m.get64 T a >>> m.get64 T b) |||
        ((m.get64 T a <<< ((64 + 2 ^ 64 - m.get64 T b) % 2 ^ 64)) % 2 ^ 64))) := by
  have hw1 := w64_pos T
  unfold tcg_gen_rotr_i64
  simp only [h, Bool.false_eq_true, if_false]
  refine Sem.new64_2 T (fun t ht => Sem.bind
      (tcg_gen_shr_i64_sem T (r := t) (a := a) (b := b) (n := t + T.w64 + T.w64) (by omega)
        (by omega))
      (Sem.bind (tcg_gen_subfi_i64_sem T (r := t + T.w64) (a := b) (n := t + T.w64 + T.w64) 64
        (by omega))
      (Sem.bind (tcg_gen_shl_i64_sem T (r := t + T.w64) (a := a) (b := t + T.w64)
        (n := t + T.w64 + T.w64) (by omega) (by omega))
      (Sem.bind (tcg_gen_or_i64_sem T (r := r) (a := t) (b := t + T.w64)
        (n := t + T.w64 + T.w64) (by omega) (by omega) (by omega) (by omega))
      (Sem.bind (Sem.pure _) (Sem.pure _)))))) (fun t ht m => ?_)
      (Local.set64_2 T r (fun x y => (x >>> y) |||
        ((x <<< ((64 + 2 ^ 64 - y) % 2 ^ 64)) % 2 ^ 64)) ha hb)
  simp only [Function.comp, id]
  simp (disch := omega) only [Machine.get64_set64_self, Machine.get64_set64_ne]
  refine Agree.of_set64 T (by simp) ?_ (fun i hi hne => ?_)
  · congr 1
    rw [Nat.mod_mod, Nat.mod_mod, show (64 : Nat) % 2 ^ 64 = 64 by norm_num,
      shr_mod_of_lt 64 _ _ (Machine.get64_lt T m a)]
  · simp (disch := omega) only [Machine.set64_regs_ne]


theorem tcg_gen_rotl_i64_shifts (T : TCGTarget) {r a b n : Nat}
    (h : T.TCG_TARGET_HAS_rot_i64 = false) (ha : a + T.w64 ≤ n) (hb : b + T.w64 ≤ n)
    (hr : r + T.w64 ≤ n) :
    ShiftRange (tcg_gen_rotl_i64 T r a b) n
      (fun m => decide (m.get64 T b < 64) &&
        decide ((64 + 2 ^ 64 - m.get64 T b) % 2 ^ 64 < 64)) := by
  have hw1 := w64_pos T
  unfold tcg_gen_rotl_i64
  simp only [h, Bool.false_eq_true, if_false]
  refine ShiftRange.new64_2_shift T (fun t ht => ?_)
  refine ShiftRange.bind_shift
    (tcg_gen_shl_i64_sem T (r := t) (a := a) (b := b) (n := t + T.w64 + T.w64) (by omega)
      (by omega))
    (tcg_gen_shl_i64_shifts T t a b (t + T.w64 + T.w64))
    (χ := fun m => decide ((64 + 2 ^ 64 - m.get64 T b) % 2 ^ 64 < 64)) ?_
    (fun N hN m m' hA => ?_)
  · refine (ShiftRange.bind_shift (ψ := fun m => decide ((64 + 2 ^ 64 - m.get64 T b) % 2 ^ 64 < 64))
      (tcg_gen_subfi_i64_sem T (r := t + T.w64) (a := b) (n := t + T.w64 + T.w64) 64
        (by omega))
      (tcg_gen_subfi_i64_shifts T (t + T.w64) 64 b (t + T.w64 + T.w64) (by norm_num))
      (χ := fun m => decide (m.get64 T (t + T.w64) < 64)) ?_
      (fun N hN m m' hA => ?_)).congr (fun m => Bool.true_and _)
    · refine (ShiftRange.bind_shift (ψ := fun _ => true)
        (tcg_gen_shr_i64_sem T (r := t + T.w64) (a := a) (b := t + T.w64)
          (n := t + T.w64 + T.w64) (by omega) (by omega))
        (tcg_gen_shr_i64_shifts T (t + T.w64) a (t + T.w64) (t + T.w64 + T.w64))
        (χ := fun _ => true) ?_
        (fun _ _ _ _ _ => rfl)).congr (fun m => Bool.and_true _)
      refine ShiftRange.bind_none
        (tcg_gen_or_i64_sem T (r := r) (a := t) (b := t + T.w64)
          (n := t + T.w64 + T.w64) (by omega) (by omega) (by omega) (by omega))
        (tcg_gen_or_i64_shifts T r t (t + T.w64) (t + T.w64 + T.w64)) ?_
      exact ShiftRange.bind_none (Sem.pure _) (ShiftRange.pure_shift _) (ShiftRange.pure_shift _)
    · have := hA.get64 T (show t + T.w64 + T.w64 ≤ N by omega)
      rw [Machine.get64_set64_self] at this
      simp only [this, Nat.mod_mod]
      rfl
  · have := hA.get64 T (show b + T.w64 ≤ N by omega)
    rw [Machine.get64_set64_ne T _ _ (by omega)] at this
    simp only [this]

theorem tcg_gen_rotr_i64_shifts (T : TCGTarget) {r a b n : Nat}
    (h : T.TCG_TARGET_HAS_rot_i64 = false) (ha : a + T.w64 ≤ n) (hb : b + T.w64 ≤ n)
    (hr : r + T.w64 ≤ n) :
    ShiftRange (tcg_gen_rotr_i64 T r a b) n
      (fun m => decide (m.get64 T b < 64) &&
        decide ((64 + 2 ^ 64 - m.get64 T b) % 2 ^ 64 < 64)) := by
  have hw1 := w64_pos T
  unfold tcg_gen_rotr_i64
  simp only [h, Bool.false_eq_true, if_false]
  refine ShiftRange.new64_2_shift T (fun t ht => ?_)
  refine ShiftRange.bind_shift
    (tcg_gen_shr_i64_sem T (r := t) (a := a) (b := b) (n := t + T.w64 + T.w64) (by omega)
      (by omega))
    (tcg_gen_shr_i64_shifts T t a b (t + T.w64 + T.w64))
    (χ := fun m => decide ((64 + 2 ^ 64 - m.get64 T b) % 2 ^ 64 < 64)) ?_
    (fun N hN m m' hA => ?_)
  · refine (ShiftRange.bind_shift (ψ := fun m => decide ((64 + 2 ^ 64 - m.get64 T b) % 2 ^ 64 < 64))
      (tcg_gen_subfi_i64_sem T (r := t + T.w64) (a := b) (n := t + T.w64 + T.w64) 64
        (by omega))
      (tcg_gen_subfi_i64_shifts T (t + T.w64) 64 b (t + T.w64 + T.w64) (by norm_num))
      (χ := fun m => decide (m.get64 T (t + T.w64) < 64)) ?_
      (fun N hN m m' hA => ?_)).congr (fun m => Bool.true_and _)
    · refine (ShiftRange.bind_shift (ψ := fun _ => true)
        (tcg_gen_shl_i64_sem T (r := t + T.w64) (a := a) (b := t + T.w64)
          (n := t + T.w64 + T.w64) (by omega) (by omega))
        (tcg_gen_shl_i64_shifts T (t + T.w64) a (t + T.w64) (t + T.w64 + T.w64))
        (χ := fun _ => true) ?_
        (fun _ _ _ _ _ => rfl)).congr (fun m => Bool.and_true _)
      refine ShiftRange.bind_none
        (tcg_gen_or_i64_sem T (r := r) (a := t) (b := t + T.w64)
          (n := t + T.w64 + T.w64) (by omega) (by omega) (by omega) (by omega))
        (tcg_gen_or_i64_shifts T r t (t + T.w64) (t + T.w64 + T.w64)) ?_
      exact ShiftRange.bind_none (Sem.pure _) (ShiftRange.pure_shift _) (ShiftRange.pure_shift _)
    · have := hA.get64 T (show t + T.w64 + T.w64 ≤ N by omega)
      rw [Machine.get64_set64_self] at this
      simp only [this, Nat.mod_mod]
      rfl
  · have := hA.get64 T (show b + T.w64 ≤ N by omega)
    rw [Machine.get64_set64_ne T _ _ (by omega)] at this
    simp only [this]

theorem rotr_eq_shifts (w x c : Nat) (hx : x < 2 ^ w) (hc : c < w) :
    (x >>> c) ||| ((x <<< (w - c)) % 2 ^ w) = rotr w x c := by
  apply Nat.eq_of_testBit_eq; intro i
  rw [testBit_rotr w x c i hc]
  simp only [Nat.testBit_or, Nat.testBit_mod_two_pow, Nat.testBit_shiftLeft,
    Nat.testBit_shiftRight, ge_iff_le]
  rcases Nat.lt_or_ge (c + i) w with h | h
  · have hi : i < w := by omega
    simp (disch := omega) only [decide_eq_true, decide_eq_false, Bool.true_and,
      Bool.false_and, Bool.and_true]
  · have hz : x.testBit (c + i) = false :=
      Nat.testBit_lt_two_pow (lt_of_lt_of_le hx (Nat.pow_le_pow_right (by norm_num) h))
    rw [hz]
    rcases Nat.lt_or_ge i w with hi | hi
    · simp (disch := omega) only [decide_eq_true, decide_eq_false, Bool.true_and,
        Bool.false_and, Bool.and_true, Bool.false_or, Bool.or_false]
    · simp (disch := omega) only [decide_eq_true, decide_eq_false, Bool.true_and,
        Bool.false_and, Bool.and_true, Bool.false_or, Bool.or_false]

theorem subf_small (w n : Nat) (hw : w < 2 ^ w) (hn : n ≤ w) : (w + 2 ^ w - n) % 2 ^ w = (w - n) % 2 ^ w := by
  rw [show w + 2 ^ w - n = (w - n) + 2 ^ w by omega, Nat.add_mod_right]

theorem and_one_shl_eq_zero (x i : Nat) : x &&& (1 <<< i) = 0 ↔ x.testBit i = false := by
  rw [Nat.one_shiftLeft, Nat.and_two_pow]
  cases x.testBit i <;> simp

theorem tcg_gen_goto_tb_ok (C : TBConfig) (hC : C.CONFIG_DEBUG_TCG = true) (idx : Nat)
    (s : TBContext) :
    (tcg_gen_goto_tb C idx s).1 = some () ↔
      idx ≤ TB_EXIT_IDXMAX ∧ s.goto_tb_issue_mask.testBit idx = false := by
  unfold tcg_gen_goto_tb
  by_cases h1 : idx ≤ TB_EXIT_IDXMAX
  · by_cases h2 : s.goto_tb_issue_mask.testBit idx = false
    · have := (and_one_shl_eq_zero s.goto_tb_issue_mask idx).2 h2
      simp [h1, h2, hC, this]
    · have h3 : ¬ s.goto_tb_issue_mask &&& (1 <<< idx) = 0 :=
        fun h => h2 ((and_one_shl_eq_zero _ _).1 h)
      simp [h1, h2, hC, h3]
  · simp [h1]

theorem tcg_gen_goto_tb_mask (C : TBConfig) (hC : C.CONFIG_DEBUG_TCG = true) (idx : Nat)
    (s : TBContext) (h : (tcg_gen_goto_tb C idx s).1 = some ()) (j : Nat) :
    (tcg_gen_goto_tb C idx s).2.goto_tb_issue_mask.testBit j =
      (s.goto_tb_issue_mask.testBit j || decide (j = idx)) := by
  obtain ⟨h1, h2⟩ := (tcg_gen_goto_tb_ok C hC idx s).1 h
  have h3 := (and_one_shl_eq_zero s.goto_tb_issue_mask idx).2 h2
  unfold tcg_gen_goto_tb
  simp only [h1, not_true_eq_false, if_false, hC, h3, ne_eq, not_true_eq_false, and_false,
    if_true, plugin_gen_disable_mem_helpers]
  have : ∀ (s' : TBContext), s'.goto_tb_issue_mask = s.goto_tb_issue_mask ||| 1 <<< idx →
      s'.goto_tb_issue_mask.testBit j = (s.goto_tb_issue_mask.testBit j || decide (j = idx)) := by
    intro s' e
    rw [e, Nat.testBit_or, Nat.one_shiftLeft, Nat.testBit_two_pow]
    congr 1
    simp [eq_comm]
  apply this
  split <;> split <;> rfl

theorem tcg_gen_exit_tb_mask (C : TBConfig) (tb idx : Nat) (s : TBContext) :
    (tcg_gen_exit_tb C tb idx s).2.goto_tb_issue_mask = s.goto_tb_issue_mask := by
  unfold tcg_gen_exit_tb plugin_gen_disable_mem_helpers
  simp only []
  repeat' split
  all_goals rfl

theorem run_tb_calls_mask (C : TBConfig) (hC : C.CONFIG_DEBUG_TCG = true) (calls : List TBCall) :
    ∀ (s0 s : TBContext), run_tb_calls C calls s0 = some s → ∀ j,
      s.goto_tb_issue_mask.testBit j =
        (s0.goto_tb_issue_mask.testBit j || decide (TBCall.goto_tb j ∈ calls)) := by
  induction calls with
  | nil =>
    intro s0 s h j
    simp only [run_tb_calls, Option.some.injEq] at h
    subst h
    simp
  | cons c rest ih =>
    intro s0 s h j
    cases c with
    | goto_tb idx =>
      simp only [run_tb_calls] at h
      rcases hg : tcg_gen_goto_tb C idx s0 with ⟨_ | u, s1⟩
      · rw [hg] at h
        exact absurd h (by simp)
      · rw [hg] at h
        have h1 := ih s1 s h j
        have h2 := tcg_gen_goto_tb_mask C hC idx s0 (by rw [hg]) j
        rw [hg] at h2
        rw [h1, h2]
        by_cases e : j = idx
        · subst e
          simp
        · have e' : idx ≠ j := fun x => e x.symm
          simp [e, e']
    | exit_tb tb idx =>
      simp only [run_tb_calls] at h
      rcases hg : tcg_gen_exit_tb C tb idx s0 with ⟨_ | u, s1⟩
      · rw [hg] at h
        exact absurd h (by simp)
      · rw [hg] at h
        have h1 := ih s1 s h j
        have h2 := tcg_gen_exit_tb_mask C tb idx s0
        rw [hg] at h2
        simp only at h2
        rw [h1, h2]
        simp

theorem run_tb_calls_append (C : TBConfig) (a b : List TBCall) :
    ∀ s : TBContext, run_tb_calls C (a ++ b) s = (run_tb_calls C a s).bind (run_tb_calls C b) := by
  induction a with
  | nil => intro s; rfl
  | cons c rest ih =>
    intro s
    cases c with
    | goto_tb idx =>
      simp only [List.cons_append, run_tb_calls]
      rcases tcg_gen_goto_tb C idx s with ⟨_ | u, s1⟩
      · rfl
      · exact ih s1
    | exit_tb tb idx =>
      simp only [List.cons_append, run_tb_calls]
      rcases tcg_gen_exit_tb C tb idx s with ⟨_ | u, s1⟩
      · rfl
      · exact ih s1

theorem tcg_gen_exit_tb_ok (C : TBConfig) (hC : C.CONFIG_DEBUG_TCG = true) (tb idx : Nat)
    (s : TBContext) (htb : tb ≠ 0) (hidx : idx ≤ TB_EXIT_IDXMAX) :
    (tcg_gen_exit_tb C tb idx s).1 = some () ↔ s.goto_tb_issue_mask.testBit idx = true := by
  unfold tcg_gen_exit_tb
  by_cases h2 : s.goto_tb_issue_mask.testBit idx = false
  · have := (and_one_shl_eq_zero s.goto_tb_issue_mask idx).2 h2
    simp [htb, hidx, hC, this, h2]
  · have h3 : ¬ s.goto_tb_issue_mask &&& (1 <<< idx) = 0 :=
      fun h => h2 ((and_one_shl_eq_zero _ _).1 h)
    simp only [Bool.not_eq_false] at h2
    simp [htb, hidx, hC, h3, h2]

theorem and_index (x : Nat) :
    x &&& (MO_SIZE ||| MO_BSWAP) = (x &&& MO_SIZE) ||| (x &&& MO_BSWAP) := by
  apply Nat.eq_of_testBit_eq; intro i
  simp only [Nat.testBit_and, Nat.testBit_or, Bool.and_or_distrib_left]

theorem and_MO_BSWAP (x : Nat) : x &&& MO_BSWAP = 0 ∨ x &&& MO_BSWAP = MO_BSWAP := by
  rw [show MO_BSWAP = 2 ^ 3 from rfl, Nat.and_two_pow]
  cases x.testBit 3 <;> simp

/-- The canonical `MemOp` of a byte access has no byte-swap bit. -/
theorem canonical_byte_no_bswap (T : TCGTarget) (op : Nat) (is64 st : Bool)
    (s s' : TCGContext) (c : Nat)
    (h : tcg_canonicalize_memop T op is64 st s = (some c, s'))
    (h8 : c &&& MO_SIZE = MO_8) : c &&& MO_BSWAP = 0 := by
  obtain ⟨_, _, _, e⟩ := tcg_canonicalize_memop_some T op is64 st s s' c h
  obtain ⟨f1, f2, f3, f4, f5, f6, _, _⟩ := memop_clear_facts op
  generalize hx : (if op &&& MO_SIZE = MO_8 then op &&& bnot 32 MO_BSWAP
    else if op &&& MO_SIZE = MO_32 ∧ is64 = false then op &&& bnot 32 MO_SIGN
    else op) = x at e
  obtain ⟨k1, k2, k3, k4, k5, k6, _, _⟩ := memop_clear_facts x
  have hsz : c &&& MO_SIZE = x &&& MO_SIZE := by
    subst e
    cases st
    · simp
    · simp only [if_true]
      exact k3
  have hbs : c &&& MO_BSWAP = x &&& MO_BSWAP := by
    subst e
    cases st
    · simp
    · simp only [if_true]
      exact k5
  rw [hbs]
  rw [hsz] at h8
  by_cases o8 : op &&& MO_SIZE = MO_8
  · rw [if_pos o8] at hx
    rw [← hx]
    exact f2
  · exfalso
    rw [if_neg o8] at hx
    by_cases o32 : op &&& MO_SIZE = MO_32 ∧ is64 = false
    · rw [if_pos o32] at hx
      rw [← hx, f3] at h8
      exact o8 h8
    · rw [if_neg o32] at hx
      rw [← hx] at h8
      exact o8 h8

/-- The ops that set the high word after a narrow load on a 32-bit host. -/
theorem ld_i64_high_ops (high low memop : Nat) (s : TCGContext) :
    (if memop &&& MO_SIGN ≠ 0 then tcg_gen_sari_i32 high low 31
      else tcg_gen_movi_i32 high 0) s =
    (some (), if memop &&& MO_SIGN ≠ 0 then
        s.extend [⟨.movi_i32, [s.nb_temps, 31]⟩, ⟨.sar_i32, [high, low, s.nb_temps]⟩] 1
      else s.extend [⟨.movi_i32, [high, 0]⟩] 0) := by
  split
  · simp [tcg_gen_sari_i32, tcg_debug_assert, Gen.bind_apply, tcg_const_i32, tcg_temp_new_i32,
      tcg_gen_movi_i32, tcg_gen_op2, tcg_emit_op, Gen.andThen, tcg_gen_sar_i32, tcg_gen_op3,
      tcg_temp_free_i32, TCGContext.extend, List.append_assoc]
    rfl
  · simp [tcg_gen_movi_i32, tcg_gen_op2, tcg_emit_op, TCGContext.extend]

theorem and_ssize_split (x : Nat) :
    x &&& MO_SSIZE = (x &&& MO_SIZE) + (x &&& MO_SIGN) := by
  rw [and_MO_SSIZE, and_MO_SIZE, and_MO_SIGN]
  omega

theorem tcg_gen_ext_i32_sem (T : TCGTarget) {r a n : Nat} (opc : Nat)
    (h64 : opc &&& MO_SIZE ≠ MO_64) (ha : a < n) (hr : r < n) :
    Sem (tcg_gen_ext_i32 T r a opc) n
      (fun m => m.set r (extend_from 32 (8 * 2 ^ (opc &&& MO_SIZE))
        (decide (opc &&& MO_SIGN ≠ 0)) (m.regs a))) := by
  have hs := and_ssize_split opc
  have hsz := and_MO_SIZE opc
  have hsg := and_MO_SIGN opc
  have h2 : opc / 4 % 2 = 0 ∨ opc / 4 % 2 = 1 := by omega
  have h4 : opc % 4 = 0 ∨ opc % 4 = 1 ∨ opc % 4 = 2 := by
    have : opc % 4 ≠ 3 := fun e => h64 (by rw [hsz, e]; rfl)
    omega
  unfold tcg_gen_ext_i32
  simp only [show MO_SB = 4 from rfl, show MO_UB = 0 from rfl, show MO_SW = 5 from rfl,
    show MO_UW = 1 from rfl]
  rw [hs, hsz, hsg]
  unfold extend_from
  rcases h4 with e | e | e <;> rcases h2 with g | g <;> simp only [e, g]
  · simpa using tcg_gen_ext8u_i32_sem T ha
  · simpa using tcg_gen_ext8s_i32_sem T ha hr
  · simpa using tcg_gen_ext16u_i32_sem T ha
  · simpa using tcg_gen_ext16s_i32_sem T ha hr
  · simpa [sext_32_32] using tcg_gen_mov_i32_sem (r := r) ha
  · simpa [sext_32_32] using tcg_gen_mov_i32_sem (r := r) ha

theorem AtomicName.OP_i32_sem (T : TCGTarget) (NAME : AtomicName) {r a b n : Nat}
    (ha : a < n) (hb : b < n) (hr : r < n) :
    Sem (NAME.OP_i32 T r a b) n
      (fun m => m.set r (NAME.op 32 (m.regs a % 2 ^ 32) (m.regs b % 2 ^ 32))) := by
  have hmc : ∀ (cond : TCGCond) (x y : Nat), x < n → y < n →
      Sem (tcg_gen_movcond_i32 T cond r a b x y) n
        (fun m => m.set r (if cond.eval 32 (m.regs a % 2 ^ 32) (m.regs b % 2 ^ 32)
          then m.regs x % 2 ^ 32 else m.regs y % 2 ^ 32)) := by
    intro cond x y hx hy
    refine (@tcg_gen_movcond_i32_sem T r a b x y n cond ha hb hx hy hr).conseq
      (fun N _ m => ?_)
    rw [TCGCond.eval_mod]
    exact Agree.refl _ _
  cases NAME
  case fetch_add => exact tcg_gen_add_i32_sem ha hb
  case add_fetch => exact tcg_gen_add_i32_sem ha hb
  case fetch_and => exact tcg_gen_and_i32_sem ha hb
  case and_fetch => exact tcg_gen_and_i32_sem ha hb
  case fetch_or => exact tcg_gen_or_i32_sem ha hb
  case or_fetch => exact tcg_gen_or_i32_sem ha hb
  case fetch_xor => exact tcg_gen_xor_i32_sem ha hb
  case xor_fetch => exact tcg_gen_xor_i32_sem ha hb
  case xchg => exact tcg_gen_mov_i32_sem hb
  case fetch_smin =>
    refine (hmc .LT a b ha hb).conseq (fun N _ m => ?_)
    simp only [AtomicName.op, AtomicName.helper, atomic_new, TCGCond.eval, Nat.mod_mod,
      decide_eq_true_eq, toInt_mod]
    exact Agree.refl _ _
  case smin_fetch =>
    refine (hmc .LT a b ha hb).conseq (fun N _ m => ?_)
    simp only [AtomicName.op, AtomicName.helper, atomic_new, TCGCond.eval, Nat.mod_mod,
      decide_eq_true_eq, toInt_mod]
    exact Agree.refl _ _
  case fetch_smax =>
    refine (hmc .LT b a hb ha).conseq (fun N _ m => ?_)
    simp only [AtomicName.op, AtomicName.helper, atomic_new, TCGCond.eval, Nat.mod_mod,
      decide_eq_true_eq, toInt_mod]
    exact Agree.refl _ _
  case smax_fetch =>
    refine (hmc .LT b a hb ha).conseq (fun N _ m => ?_)
    simp only [AtomicName.op, AtomicName.helper, atomic_new, TCGCond.eval, Nat.mod_mod,
      decide_eq_true_eq, toInt_mod]
    exact Agree.refl _ _
  case fetch_umin =>
    refine (hmc .LTU a b ha hb).conseq (fun N _ m => ?_)
    simp only [AtomicName.op, AtomicName.helper, atomic_new, TCGCond.eval, Nat.mod_mod,
      decide_eq_true_eq, toInt_mod]
    exact Agree.refl _ _
  case umin_fetch =>
    refine (hmc .LTU a b ha hb).conseq (fun N _ m => ?_)
    simp only [AtomicName.op, AtomicName.helper, atomic_new, TCGCond.eval, Nat.mod_mod,
      decide_eq_true_eq, toInt_mod]
    exact Agree.refl _ _
  case fetch_umax =>
    refine (hmc .LTU b a hb ha).conseq (fun N _ m => ?_)
    simp only [AtomicName.op, AtomicName.helper, atomic_new, TCGCond.eval, Nat.mod_mod,
      decide_eq_true_eq, toInt_mod]
    exact Agree.refl _ _
  case umax_fetch =>
    refine (hmc .LTU b a hb ha).conseq (fun N _ m => ?_)
    simp only [AtomicName.op, AtomicName.helper, atomic_new, TCGCond.eval, Nat.mod_mod,
      decide_eq_true_eq, toInt_mod]
    exact Agree.refl _ _

theorem ea_set_ge (T : TCGTarget) (m : Machine) {x a : Nat} (y : Nat) (h : a + T.aw ≤ x) :
    T.ea (m.set x y) a = T.ea m a :=
  (show Agree x (m.set x y) m from
    ⟨rfl, fun i hi => Machine.set_regs_ne _ _ (by omega)⟩).ea T h

theorem do_nonatomic_op_i32_sem (T : TCGTarget) {r a v n : Nat} (idx memop c d e : Nat)
    (new_val : Bool) (gen : TCGv_i32 → TCGv_i32 → TCGv_i32 → Gen Unit) (gen_sign : GEN_OP_SIGN)
    (f : Nat → Nat → Nat) (hidx : idx < 16)
    (hc : ∀ s, tcg_canonicalize_memop T memop false false s = (some c, s))
    (hd : ∀ s, tcg_canonicalize_memop T (get_memop_for_operation c gen_sign) false false s =
      (some d, s))
    (he : ∀ s, tcg_canonicalize_memop T c false true s = (some e, s))
    (hgen : ∀ t, n ≤ t → Sem (gen (t + 1) t (t + 1)) (t + 2)
      (fun m => m.set (t + 1) (f (m.regs t % 2 ^ 32) (m.regs (t + 1) % 2 ^ 32))))
    (hr : r < n) (hv : v < n) (ha : a + T.aw ≤ n) :
    Sem (do_nonatomic_op_i32 T r a v idx memop new_val gen gen_sign) n
      (fun m => ({ m with mem := (mem_st m.mem (T.ea m a) e
          (f (mem_ld 32 m.mem (T.ea m a) d % 2 ^ 32)
            (extend_from 32 (8 * 2 ^ (get_memop_for_operation c gen_sign &&& MO_SIZE))
              (decide (get_memop_for_operation c gen_sign &&& MO_SIGN ≠ 0)) (m.regs v) %
              2 ^ 32))) } : Machine).set r
        (extend_from 32 (8 * 2 ^ (c &&& MO_SIZE)) (decide (c &&& MO_SIGN ≠ 0))
          (if new_val then
            f (mem_ld 32 m.mem (T.ea m a) d % 2 ^ 32)
              (extend_from 32 (8 * 2 ^ (get_memop_for_operation c gen_sign &&& MO_SIZE))
                (decide (get_memop_for_operation c gen_sign &&& MO_SIGN ≠ 0)) (m.regs v) %
                2 ^ 32)
          else mem_ld 32 m.mem (T.ea m a) d))) := by
  have haw := aw_pos T
  obtain ⟨_, hc64, _⟩ := canonical_ld_i32_facts T memop c (TCGContext.fresh 0) (hc _)
  have ht64 : get_memop_for_operation c gen_sign &&& MO_SIZE ≠ MO_64 :=
    (tcg_canonicalize_memop_some T _ false false _ _ d (hd (TCGContext.fresh 0))).2.2.1 rfl
  have hL : Local n (fun m => ({ m with mem := (mem_st m.mem (T.ea m a) e
          (f (mem_ld 32 m.mem (T.ea m a) d % 2 ^ 32)
            (extend_from 32 (8 * 2 ^ (get_memop_for_operation c gen_sign &&& MO_SIZE))
              (decide (get_memop_for_operation c gen_sign &&& MO_SIGN ≠ 0)) (m.regs v) %
              2 ^ 32))) } : Machine).set r
        (extend_from 32 (8 * 2 ^ (c &&& MO_SIZE)) (decide (c &&& MO_SIGN ≠ 0))
          (if new_val then
            f (mem_ld 32 m.mem (T.ea m a) d % 2 ^ 32)
              (extend_from 32 (8 * 2 ^ (get_memop_for_operation c gen_sign &&& MO_SIZE))
                (decide (get_memop_for_operation c gen_sign &&& MO_SIGN ≠ 0)) (m.regs v) %
                2 ^ 32)
          else mem_ld 32 m.mem (T.ea m a) d))) := by
    intro N hN m m' h
    have e1 := (h.mono hN).ea T ha
    have e2 := h.1
    have e3 := h.2 v (by omega)
    simp only [e1, e2, e3]
    refine ⟨rfl, fun i hi => ?_⟩
    simp only [Machine.set_regs]
    split
    · rfl
    · exact h.2 i hi
  unfold do_nonatomic_op_i32
  refine Sem.new2 (F := fun t => ((((((id ∘ id) ∘
      (fun m => m.set r (extend_from 32 (8 * 2 ^ (c &&& MO_SIZE)) (decide (c &&& MO_SIGN ≠ 0))
        (m.regs (if new_val = true then t + 1 else t))))) ∘
      (fun m => ({ m with mem := (mem_st m.mem (T.ea m a) e (m.regs (t + 1))) } : Machine))) ∘
      (fun m => m.set (t + 1) (f (m.regs t % 2 ^ 32) (m.regs (t + 1) % 2 ^ 32)))) ∘
      (fun m => m.set (t + 1)
        (extend_from 32 (8 * 2 ^ (get_memop_for_operation c gen_sign &&& MO_SIZE))
          (decide (get_memop_for_operation c gen_sign &&& MO_SIGN ≠ 0)) (m.regs v)))) ∘
      (fun m => m.set t (mem_ld 32 m.mem (T.ea m a) d))))
    hL (fun t ht => Sem.bind_val c hc ?body) (fun t ht m => ?agree)
  case body =>
    exact Sem.bind (@tcg_gen_qemu_ld_i32_sem T t a (t + 2) idx _ d hidx hd (by omega) (by omega))
      (Sem.bind (tcg_gen_ext_i32_sem T (r := t + 1) (a := v) (n := t + 2)
        (get_memop_for_operation c gen_sign) ht64 (by omega) (by omega))
      (Sem.bind (hgen t ht)
      (Sem.bind (@tcg_gen_qemu_st_i32_sem T (t + 1) a (t + 2) idx c e true hidx he (by omega)
        (by omega))
      (Sem.bind (tcg_gen_ext_i32_sem T (r := r) (a := if new_val = true then t + 1 else t)
        (n := t + 2) c hc64 (by split <;> omega) (by omega))
      (Sem.bind (Sem.free t (t + 2)) (Sem.free (t + 1) (t + 2)))))))
  case agree =>
    have d1 : r ≠ t := by omega
    have d2 : r ≠ t + 1 := by omega
    have d3 : v ≠ t := by omega
    have d4 : v ≠ t + 1 := by omega
    cases new_val <;>
      simp (disch := omega) only [Function.comp, id, ea_set_ge, Machine.set_regs_self,
        Machine.set_regs_ne, Machine.set_mem, if_true, if_false, Bool.false_eq_true, ne_eq,
        not_false_eq_true, d3, d4, Nat.succ_ne_self]
    all_goals
      refine ⟨rfl, fun i hi => ?_⟩
      have d5 : i ≠ t := by omega
      have d6 : i ≠ t + 1 := by omega
      simp only [Machine.set_regs, d5, d6, if_false]

theorem bswap_size_lt_bits (s x : Nat) (hs : s ≤ 3) (hx : x < 2 ^ (8 * 2 ^ s)) :
    bswap_size s x < 2 ^ (8 * 2 ^ s) := by
  unfold bswap_size
  have : s = 0 ∨ s = 1 ∨ s = 2 ∨ s = 3 := by omega
  rcases this with rfl | rfl | rfl | rfl
  · simpa using hx
  · simpa using bswap16_lt x
  · simpa using bswap32_lt x
  · simpa using bswap64_lt x

/-- The unswapped or swapped bytes that a load delivers, before any sign extension. -/
theorem mem_ld_raw_lt (mem : Nat → Nat) (ea x : Nat) :
    (if x &&& MO_BSWAP ≠ 0 then bswap_size (x &&& MO_SIZE) (ldn mem ea (2 ^ (x &&& MO_SIZE)))
      else ldn mem ea (2 ^ (x &&& MO_SIZE))) < 2 ^ (8 * 2 ^ (x &&& MO_SIZE)) := by
  have hs : x &&& MO_SIZE ≤ 3 := by rw [and_MO_SIZE]; omega
  split
  · exact bswap_size_lt_bits _ _ hs (ldn_lt _ _ _)
  · exact ldn_lt _ _ _

theorem mem_ld_fields (w : Nat) (mem : Nat → Nat) (ea x y : Nat)
    (h1 : x &&& MO_SIZE = y &&& MO_SIZE) (h2 : x &&& MO_BSWAP = y &&& MO_BSWAP)
    (h3 : x &&& MO_SIGN = y &&& MO_SIGN) : mem_ld w mem ea x = mem_ld w mem ea y := by
  unfold mem_ld
  simp only [h1, h2, h3]

/-- A load is the unsigned load of the same bytes, extended as the `MemOp` says. -/
theorem mem_ld_eq_extend (w : Nat) (mem : Nat → Nat) (ea x : Nat)
    (hw : 8 * 2 ^ (x &&& MO_SIZE) ≤ w) :
    mem_ld w mem ea x = extend_from w (8 * 2 ^ (x &&& MO_SIZE)) (decide (x &&& MO_SIGN ≠ 0))
      (mem_ld w mem ea (x &&& bnot 32 MO_SIGN)) ∧
    mem_ld w mem ea (x &&& bnot 32 MO_SIGN) < 2 ^ (8 * 2 ^ (x &&& MO_SIZE)) := by
  obtain ⟨f1, f2, f3, f4, f5, f6, _, _⟩ := memop_clear_facts x
  have hv := mem_ld_raw_lt mem ea x
  have hvw := lt_of_lt_of_le hv (Nat.pow_le_pow_right (by norm_num) hw)
  have hb0 : 0 < 8 * 2 ^ (x &&& MO_SIZE) := by positivity
  have hU : mem_ld w mem ea (x &&& bnot 32 MO_SIGN) =
      (if x &&& MO_BSWAP ≠ 0 then bswap_size (x &&& MO_SIZE) (ldn mem ea (2 ^ (x &&& MO_SIZE)))
        else ldn mem ea (2 ^ (x &&& MO_SIZE))) := by
    unfold mem_ld
    simp only [f1, f3, f5, ne_eq, not_true_eq_false, if_false]
    exact Nat.mod_eq_of_lt hvw
  refine ⟨?_, by rw [hU]; exact hv⟩
  have hx : mem_ld w mem ea x = (if x &&& MO_SIGN ≠ 0 then sext w (8 * 2 ^ (x &&& MO_SIZE))
      (if x &&& MO_BSWAP ≠ 0 then bswap_size (x &&& MO_SIZE) (ldn mem ea (2 ^ (x &&& MO_SIZE)))
        else ldn mem ea (2 ^ (x &&& MO_SIZE)))
      else (if x &&& MO_BSWAP ≠ 0 then
        bswap_size (x &&& MO_SIZE) (ldn mem ea (2 ^ (x &&& MO_SIZE)))
        else ldn mem ea (2 ^ (x &&& MO_SIZE)))) % 2 ^ w := rfl
  rw [hx, hU]
  generalize (if x &&& MO_BSWAP ≠ 0 then
    bswap_size (x &&& MO_SIZE) (ldn mem ea (2 ^ (x &&& MO_SIZE)))
    else ldn mem ea (2 ^ (x &&& MO_SIZE))) = V at hv hvw
  unfold extend_from
  by_cases hs : x &&& MO_SIGN ≠ 0
  · rw [if_pos hs, if_pos (by simpa using hs)]
    exact Nat.mod_eq_of_lt (sext_lt _ _ _ hw)
  · rw [if_neg hs, if_neg (by simpa using hs)]
    rw [Nat.mod_eq_of_lt hvw, Nat.mod_eq_of_lt hv]

theorem tcg_gen_ext8s_i64_sem (T : TCGTarget) {r a n : Nat} (h1 : a + T.w64 ≤ n)
    (hr : r + T.w64 ≤ n) (hra : r = a ∨ r + T.w64 ≤ a ∨ a + T.w64 ≤ r) :
    Sem (tcg_gen_ext8s_i64 T r a) n (fun m => m.set64 T r (sext 64 8 (m.get64 T a))) := by
  unfold tcg_gen_ext8s_i64
  cases hT : T.reg64
  · have hw := w64_of_reg32 hT
    simp only [Bool.false_eq_true, not_false_eq_true, if_true, TCGV_LOW, TCGV_HIGH]
    exact Sem.exts_pair hT (by norm_num) (by norm_num)
      (tcg_gen_ext8s_i32_sem T (by omega) (by omega)) (by omega) (by omega)
  · have hw := w64_of_reg64 hT
    simp only [not_true_eq_false, if_false]
    split_ifs with c
    · exact Sem.op1_64 hT .ext8s_i64 (fun x => sext 64 8 x) (fun _ => rfl)
        (fun x _ => sext_lt 64 8 x (by norm_num)) (by omega)
    · refine Sem.seq2_64 T (p := fun x => (x <<< 56) % 2 ^ 64) (q := fun x => sar 64 x 56)
        (f := fun x => sext 64 8 x) (tcg_gen_shli_i64_sem T (by norm_num) h1 hr hra)
        (tcg_gen_sari_i64_sem T (by norm_num) hr hr (Or.inl rfl)) (fun x _ => ?_)
      simp only []
      exact shl_sar_sext 8 56 x (by norm_num) rfl

theorem tcg_gen_ext_i64_sem (T : TCGTarget) {r a n : Nat} (opc : Nat)
    (ha : a + T.w64 ≤ n) (hr : r + T.w64 ≤ n)
    (hra : r = a ∨ r + T.w64 ≤ a ∨ a + T.w64 ≤ r) :
    Sem (tcg_gen_ext_i64 T r a opc) n
      (fun m => m.set64 T r (extend_from 64 (8 * 2 ^ (opc &&& MO_SIZE))
        (decide (opc &&& MO_SIGN ≠ 0)) (m.get64 T a))) := by
  have hs := and_ssize_split opc
  have hsz := and_MO_SIZE opc
  have hsg := and_MO_SIGN opc
  have h2 : opc / 4 % 2 = 0 ∨ opc / 4 % 2 = 1 := by omega
  have h4 : opc % 4 = 0 ∨ opc % 4 = 1 ∨ opc % 4 = 2 ∨ opc % 4 = 3 := by omega
  have hmov : ∀ b : Bool, Sem (tcg_gen_mov_i64 T r a) n
      (fun m => m.set64 T r (extend_from 64 64 b (m.get64 T a))) := fun b =>
    (tcg_gen_mov_i64_sem T ha hra).conseq (fun N _ m => by
      refine Agree.set64 T (Agree.refl _ _) r ?_
      unfold extend_from
      cases b
      · simp
      · simp [sext_64_64])
  unfold tcg_gen_ext_i64
  simp only [show MO_SB = 4 from rfl, show MO_UB = 0 from rfl, show MO_SW = 5 from rfl,
    show MO_UW = 1 from rfl, show MO_SL = 6 from rfl, show MO_UL = 2 from rfl]
  rw [hs, hsz, hsg]
  rcases h4 with e | e | e | e <;> rcases h2 with g | g <;> simp only [e, g]
  · simpa [extend_from] using tcg_gen_ext8u_i64_sem T ha hra
  · simpa [extend_from] using tcg_gen_ext8s_i64_sem T ha hr hra
  · simpa [extend_from] using tcg_gen_ext16u_i64_sem T ha hra
  · simpa [extend_from] using tcg_gen_ext16s_i64_sem T ha hr hra
  · simpa [extend_from] using tcg_gen_ext32u_i64_sem T ha hra
  · simpa [extend_from] using tcg_gen_ext32s_i64_sem T ha hr hra
  · simpa using hmov false
  · simpa using hmov true

theorem AtomicName.OP_i64_sem (T : TCGTarget) (NAME : AtomicName) {r a b n : Nat}
    (ha : a + T.w64 ≤ n) (hb : b + T.w64 ≤ n) (hr : r + T.w64 ≤ n)
    (hra : r = a ∨ r + T.w64 ≤ a ∨ a + T.w64 ≤ r)
    (hrb : r = b ∨ r + T.w64 ≤ b ∨ b + T.w64 ≤ r) :
    Sem (NAME.OP_i64 T r a b) n
      (fun m => m.set64 T r (NAME.op 64 (m.get64 T a) (m.get64 T b))) := by
  have hmc : ∀ (cond : TCGCond) (x y : Nat), x + T.w64 ≤ n → y + T.w64 ≤ n →
      (r = x ∨ r + T.w64 ≤ x ∨ x + T.w64 ≤ r) → (r = y ∨ r + T.w64 ≤ y ∨ y + T.w64 ≤ r) →
      Sem (tcg_gen_movcond_i64 T cond r a b x y) n
        (fun m => m.set64 T r (if cond.eval 64 (m.get64 T a) (m.get64 T b)
          then m.get64 T x else m.get64 T y)) := fun cond x y hx hy h1 h2 =>
    @tcg_gen_movcond_i64_sem T r a b x y n cond ha hb hx hy hr h1 h2
  have hlt : ∀ m : Machine, (m.get64 T a % 2 ^ 64 < m.get64 T b % 2 ^ 64) ↔
      (m.get64 T a < m.get64 T b) := fun m => by
    rw [Nat.mod_eq_of_lt (Machine.get64_lt T m a), Nat.mod_eq_of_lt (Machine.get64_lt T m b)]
  cases NAME
  case fetch_add => exact tcg_gen_add_i64_sem T ha hb
  case add_fetch => exact tcg_gen_add_i64_sem T ha hb
  case fetch_and => exact tcg_gen_and_i64_sem T ha hb hra hrb
  case and_fetch => exact tcg_gen_and_i64_sem T ha hb hra hrb
  case fetch_or => exact tcg_gen_or_i64_sem T ha hb hra hrb
  case or_fetch => exact tcg_gen_or_i64_sem T ha hb hra hrb
  case fetch_xor => exact tcg_gen_xor_i64_sem T ha hb hra hrb
  case xor_fetch => exact tcg_gen_xor_i64_sem T ha hb hra hrb
  case xchg => exact tcg_gen_mov_i64_sem T hb hrb
  case fetch_smin =>
    refine (hmc .LT a b ha hb hra hrb).conseq (fun N _ m => ?_)
    simp only [AtomicName.op, TCGCond.eval, decide_eq_true_eq, hlt]
    exact Agree.refl _ _
  case smin_fetch =>
    refine (hmc .LT a b ha hb hra hrb).conseq (fun N _ m => ?_)
    simp only [AtomicName.op, TCGCond.eval, decide_eq_true_eq, hlt]
    exact Agree.refl _ _
  case fetch_smax =>
    refine (hmc .LT b a hb ha hrb hra).conseq (fun N _ m => ?_)
    simp only [AtomicName.op, TCGCond.eval, decide_eq_true_eq, hlt]
    exact Agree.refl _ _
  case smax_fetch =>
    refine (hmc .LT b a hb ha hrb hra).conseq (fun N _ m => ?_)
    simp only [AtomicName.op, TCGCond.eval, decide_eq_true_eq, hlt]
    exact Agree.refl _ _
  case fetch_umin =>
    refine (hmc .LTU a b ha hb hra hrb).conseq (fun N _ m => ?_)
    simp only [AtomicName.op, TCGCond.eval, decide_eq_true_eq, hlt]
    exact Agree.refl _ _
  case umin_fetch =>
    refine (hmc .LTU a b ha hb hra hrb).conseq (fun N _ m => ?_)
    simp only [AtomicName.op, TCGCond.eval, decide_eq_true_eq, hlt]
    exact Agree.refl _ _
  case fetch_umax =>
    refine (hmc .LTU b a hb ha hrb hra).conseq (fun N _ m => ?_)
    simp only [AtomicName.op, TCGCond.eval, decide_eq_true_eq, hlt]
    exact Agree.refl _ _
  case umax_fetch =>
    refine (hmc .LTU b a hb ha hrb hra).conseq (fun N _ m => ?_)
    simp only [AtomicName.op, TCGCond.eval, decide_eq_true_eq, hlt]
    exact Agree.refl _ _

theorem ea_set64_ge (T : TCGTarget) (m : Machine) {x a : Nat} (y : Nat) (h : a + T.aw ≤ x) :
    T.ea (m.set64 T x y) a = T.ea m a :=
  (show Agree x (m.set64 T x y) m from
    ⟨Machine.set64_mem T m x y, fun i hi => Machine.set64_regs_ne T m y (Or.inl hi)⟩).ea T h

theorem Machine.get64_with_mem (T : TCGTarget) (m : Machine) (x : Nat → Nat) (a : Nat) :
    ({ m with mem := x } : Machine).get64 T a = m.get64 T a := rfl

theorem do_nonatomic_op_i64_sem (T : TCGTarget) {r a v n : Nat} (idx memop c d e : Nat)
    (new_val : Bool) (gen : TCGv_i64 → TCGv_i64 → TCGv_i64 → Gen Unit) (gen_sign : GEN_OP_SIGN)
    (f : Nat → Nat → Nat) (hidx : idx < 16)
    (hc : ∀ s, tcg_canonicalize_memop T memop true false s = (some c, s))
    (hd : ∀ s, tcg_canonicalize_memop T (get_memop_for_operation c gen_sign) true false s =
      (some d, s))
    (he : ∀ s, tcg_canonicalize_memop T c true true s = (some e, s))
    (hgen : ∀ t, n ≤ t → Sem (gen (t + T.w64) t (t + T.w64)) (t + T.w64 + T.w64)
      (fun m => m.set64 T (t + T.w64) (f (m.get64 T t) (m.get64 T (t + T.w64)))))
    (hr : r + T.w64 ≤ n) (hv : v + T.w64 ≤ n) (ha : a + T.aw ≤ n) :
    Sem (do_nonatomic_op_i64 T r a v idx memop new_val gen gen_sign) n
      (fun m => ({ m with mem := (mem_st m.mem (T.ea m a) e
          (f (mem_ld 64 m.mem (T.ea m a) d % 2 ^ 64)
            (extend_from 64 (8 * 2 ^ (get_memop_for_operation c gen_sign &&& MO_SIZE))
              (decide (get_memop_for_operation c gen_sign &&& MO_SIGN ≠ 0)) (m.get64 T v) %
              2 ^ 64) % 2 ^ 64)) } : Machine).set64 T r
        (extend_from 64 (8 * 2 ^ (c &&& MO_SIZE)) (decide (c &&& MO_SIGN ≠ 0))
          (if new_val then
            f (mem_ld 64 m.mem (T.ea m a) d % 2 ^ 64)
              (extend_from 64 (8 * 2 ^ (get_memop_for_operation c gen_sign &&& MO_SIZE))
                (decide (get_memop_for_operation c gen_sign &&& MO_SIGN ≠ 0)) (m.get64 T v) %
                2 ^ 64) % 2 ^ 64
          else mem_ld 64 m.mem (T.ea m a) d % 2 ^ 64))) := by
  have haw := aw_pos T
  have hw1 := w64_pos T
  have hL : Local n (fun m => ({ m with mem := (mem_st m.mem (T.ea m a) e
          (f (mem_ld 64 m.mem (T.ea m a) d % 2 ^ 64)
            (extend_from 64 (8 * 2 ^ (get_memop_for_operation c gen_sign &&& MO_SIZE))
              (decide (get_memop_for_operation c gen_sign &&& MO_SIGN ≠ 0)) (m.get64 T v) %
              2 ^ 64) % 2 ^ 64)) } : Machine).set64 T r
        (extend_from 64 (8 * 2 ^ (c &&& MO_SIZE)) (decide (c &&& MO_SIGN ≠ 0))
          (if new_val then
            f (mem_ld 64 m.mem (T.ea m a) d % 2 ^ 64)
              (extend_from 64 (8 * 2 ^ (get_memop_for_operation c gen_sign &&& MO_SIZE))
                (decide (get_memop_for_operation c gen_sign &&& MO_SIGN ≠ 0)) (m.get64 T v) %
                2 ^ 64) % 2 ^ 64
          else mem_ld 64 m.mem (T.ea m a) d % 2 ^ 64))) := by
    intro N hN m m' h
    have e1 := (h.mono hN).ea T ha
    have e2 := h.1
    have e3 := (h.mono hN).get64 T hv
    simp only [e1, e2, e3]
    exact Agree.of_set64 T rfl rfl (fun i hi _ => h.2 i hi)
  unfold do_nonatomic_op_i64
  refine Sem.new64_2 T (F := fun t => ((((((id ∘ id) ∘
      (fun m => m.set64 T r (extend_from 64 (8 * 2 ^ (c &&& MO_SIZE))
        (decide (c &&& MO_SIGN ≠ 0))
        (m.get64 T (if new_val = true then t + T.w64 else t))))) ∘
      (fun m => ({ m with mem := (mem_st m.mem (T.ea m a) e (m.get64 T (t + T.w64))) } :
        Machine))) ∘
      (fun m => m.set64 T (t + T.w64) (f (m.get64 T t) (m.get64 T (t + T.w64))))) ∘
      (fun m => m.set64 T (t + T.w64)
        (extend_from 64 (8 * 2 ^ (get_memop_for_operation c gen_sign &&& MO_SIZE))
          (decide (get_memop_for_operation c gen_sign &&& MO_SIGN ≠ 0)) (m.get64 T v)))) ∘
      (fun m => m.set64 T t (mem_ld 64 m.mem (T.ea m a) d))))
    (fun t ht => Sem.bind_val c hc ?body) (fun t ht m => ?agree) hL
  case body =>
    exact Sem.bind (@tcg_gen_qemu_ld_i64_sem T t a (t + T.w64 + T.w64) idx _ d hidx hd
        (by omega) (by omega))
      (Sem.bind (tcg_gen_ext_i64_sem T (r := t + T.w64) (a := v) (n := t + T.w64 + T.w64)
        (get_memop_for_operation c gen_sign) (by omega) (by omega) (by omega))
      (Sem.bind (hgen t ht)
      (Sem.bind (@tcg_gen_qemu_st_i64_sem T (t + T.w64) a (t + T.w64 + T.w64) idx c e true
        hidx he (by omega) (by omega))
      (Sem.bind (tcg_gen_ext_i64_sem T (r := r)
        (a := if new_val = true then t + T.w64 else t)
        (n := t + T.w64 + T.w64) c (by split <;> omega) (by omega) (by split <;> omega))
      (Sem.bind (Sem.free64 t (t + T.w64 + T.w64))
        (Sem.free64 (t + T.w64) (t + T.w64 + T.w64)))))))
  case agree =>
    cases new_val <;>
      simp (disch := omega) only [Function.comp, id, ea_set64_ge, Machine.get64_set64_self,
        Machine.get64_set64_ne, Machine.set64_mem, Machine.get64_with_mem, if_true, if_false,
        Bool.false_eq_true]
    all_goals
      refine Agree.of_set64 T ?_ rfl (fun i hi _ => ?_)
      · simp (disch := omega) only [Machine.set64_mem]
      · show (Machine.set64 T (Machine.set64 T (Machine.set64 T m t _) (t + T.w64) _)
          (t + T.w64) _).regs i = m.regs i
        rw [Machine.set64_regs_ne T _ _ (Or.inl (by omega)),
          Machine.set64_regs_ne T _ _ (Or.inl (by omega)),
          Machine.set64_regs_ne T _ _ (Or.inl (by omega))]

theorem sext_self (w x : Nat) : sext w w x = x % 2 ^ w := by
  unfold sext
  simp

theorem extend_from_self (w : Nat) (sg : Bool) (x : Nat) :
    extend_from w w sg x = x % 2 ^ w := by
  unfold extend_from
  cases sg <;> simp [sext_self]

theorem extend_from_lt (w len : Nat) (sg : Bool) (x : Nat) (h : len ≤ w) :
    extend_from w len sg x < 2 ^ w := by
  unfold extend_from
  cases sg
  · simp only [Bool.false_eq_true, if_false]
    exact lt_of_lt_of_le (Nat.mod_lt _ (Nat.two_pow_pos _))
      (Nat.pow_le_pow_right (by norm_num) h)
  · simp only [if_true]
    exact sext_lt _ _ _ h

theorem extend_from_low (w len : Nat) (sg : Bool) (x : Nat) (h : 0 < len) :
    extend_from w len sg (x % 2 ^ len) = extend_from w len sg x := by
  unfold extend_from
  cases sg
  · simp only [Bool.false_eq_true, if_false, Nat.mod_mod]
  · simp only [if_true]
    exact sext_low w len x h

theorem extend_from_mod_len (w len : Nat) (sg : Bool) (x : Nat) :
    extend_from w len sg x % 2 ^ len = x % 2 ^ len := by
  unfold extend_from
  cases sg
  · simp only [Bool.false_eq_true, if_false, Nat.mod_mod]
  · simp only [if_true]
    apply Nat.eq_of_testBit_eq; intro i
    simp only [testBit_sext, Nat.testBit_mod_two_pow]
    rcases Nat.lt_or_ge i len with hi | hi
    all_goals simp (disch := omega) only [decide_eq_true, decide_eq_false, Bool.and_true,
      Bool.true_and, Bool.false_and, Bool.and_false, Bool.or_false, Bool.false_or]

/-- Extending a value that was already extended from the same field. -/
theorem extend_from_twice (w len : Nat) (sg sg' : Bool) (x : Nat) (h : 0 < len) :
    extend_from w len sg (extend_from w len sg' x) = extend_from w len sg x := by
  rw [← extend_from_low w len sg (extend_from w len sg' x) h, extend_from_mod_len,
    extend_from_low w len sg x h]

/-- The sign of an extension does not matter when the field is the whole container. -/
theorem extend_from_sign (w len : Nat) (sg sg' : Bool) (x : Nat) (h : sg = sg' ∨ len = w) :
    extend_from w len sg x = extend_from w len sg' x := by
  rcases h with h | h
  · rw [h]
  · subst h
    rw [extend_from_self, extend_from_self]

theorem bswap_size_zero (x : Nat) : bswap_size MO_8 x = x := rfl

/-- The value of a load depends on the size, on the byte order above one byte and on the
sign below the container width only. -/
theorem mem_ld_as_extend (w : Nat) (mem : Nat → Nat) (ea x y : Nat) (sg : Bool)
    (hw : 8 * 2 ^ (y &&& MO_SIZE) ≤ w) (h1 : x &&& MO_SIZE = y &&& MO_SIZE)
    (h2 : y &&& MO_SIZE = MO_8 ∨ x &&& MO_BSWAP = y &&& MO_BSWAP)
    (h3 : decide (x &&& MO_SIGN ≠ 0) = sg ∨ 8 * 2 ^ (y &&& MO_SIZE) = w) :
    mem_ld w mem ea x = extend_from w (8 * 2 ^ (y &&& MO_SIZE)) sg
      (mem_ld w mem ea (y &&& bnot 32 MO_SIGN)) := by
  obtain ⟨f1, f2, f3, f4, f5, f6, _, _⟩ := memop_clear_facts x
  obtain ⟨g1, g2, g3, g4, g5, g6, _, _⟩ := memop_clear_facts y
  have hx := (mem_ld_eq_extend w mem ea x (by rw [h1]; exact hw)).1
  have hu : mem_ld w mem ea (x &&& bnot 32 MO_SIGN) = mem_ld w mem ea (y &&& bnot 32 MO_SIGN) := by
    unfold mem_ld
    simp only [f1, f3, f5, g1, g3, g5, h1]
    rcases h2 with h | h
    · simp only [h, bswap_size_zero, ite_self]
    · simp only [h]
  rw [hx, hu, h1]
  exact extend_from_sign _ _ _ _ _ h3

theorem mem_st_fields (mem : Nat → Nat) (ea x y v : Nat) (h1 : x &&& MO_SIZE = y &&& MO_SIZE)
    (h2 : y &&& MO_SIZE = MO_8 ∨ x &&& MO_BSWAP = y &&& MO_BSWAP) :
    mem_st mem ea x v = mem_st mem ea y v := by
  unfold mem_st
  simp only [h1]
  rcases h2 with h | h
  · simp only [h, bswap_size_zero, ite_self]
  · simp only [h]

/-- Reading back, unsigned, what a store wrote gives the stored value truncated to the
access size. -/
theorem mem_ld_mem_st (w : Nat) (mem : Nat → Nat) (ea x v : Nat)
    (hw : 8 * 2 ^ (x &&& MO_SIZE) ≤ w) :
    mem_ld w (mem_st mem ea x v) ea (x &&& bnot 32 MO_SIGN) =
      v % 2 ^ (8 * 2 ^ (x &&& MO_SIZE)) := by
  obtain ⟨f1, f2, f3, f4, f5, f6, _, _⟩ := memop_clear_facts x
  have hs : x &&& MO_SIZE ≤ 3 := by rw [and_MO_SIZE]; omega
  have hu : v % 2 ^ (8 * 2 ^ (x &&& MO_SIZE)) < 2 ^ (8 * 2 ^ (x &&& MO_SIZE)) :=
    Nat.mod_lt _ (Nat.two_pow_pos _)
  unfold mem_ld mem_st
  simp only [f1, f3, f5, ne_eq, not_true_eq_false, if_false, ldn_stn]
  generalize v % 2 ^ (8 * 2 ^ (x &&& MO_SIZE)) = u at hu ⊢
  have hlt : u < 2 ^ w := lt_of_lt_of_le hu (Nat.pow_le_pow_right (by norm_num) hw)
  have hbb : bswap_size (x &&& MO_SIZE) (bswap_size (x &&& MO_SIZE) u) = u := by
    have : x &&& MO_SIZE = 0 ∨ x &&& MO_SIZE = 1 ∨ x &&& MO_SIZE = 2 ∨ x &&& MO_SIZE = 3 := by
      omega
    rcases this with e | e | e | e <;> rw [e] at hu ⊢
    · rfl
    · exact (bswap16_bswap16 u).trans (Nat.mod_eq_of_lt hu)
    · exact (bswap32_bswap32 u).trans (Nat.mod_eq_of_lt hu)
    · exact (bswap64_bswap64 u).trans (Nat.mod_eq_of_lt hu)
  by_cases hb : x &&& MO_BSWAP = 0
  · simp only [hb, not_true_eq_false, if_false, 
      show 8 * 2 ^ (x &&& MO_SIZE) = 8 * 2 ^ (x &&& MO_SIZE) from rfl]
    rw [Nat.mod_eq_of_lt hu, Nat.mod_eq_of_lt hlt]
  · simp only [hb, not_false_eq_true, if_true]
    rw [Nat.mod_eq_of_lt (bswap_size_lt_bits _ _ hs hu), hbb, Nat.mod_eq_of_lt hlt]

theorem or_sign_fields (x : Nat) :
    (x ||| MO_SIGN) &&& MO_SIZE = x &&& MO_SIZE ∧
    (x ||| MO_SIGN) &&& MO_BSWAP = x &&& MO_BSWAP ∧
    (x ||| MO_SIGN) &&& MO_AMASK = x &&& MO_AMASK ∧
    (x ||| MO_SIGN) &&& MO_SIGN = MO_SIGN := by
  refine ⟨?_, ?_, ?_, ?_⟩
  · rw [Nat.and_distrib_right, show MO_SIGN &&& MO_SIZE = 0 by decide, Nat.or_zero]
  · rw [Nat.and_distrib_right, show MO_SIGN &&& MO_BSWAP = 0 by decide, Nat.or_zero]
  · rw [Nat.and_distrib_right, show MO_SIGN &&& MO_AMASK = 0 by decide, Nat.or_zero]
  · rw [Nat.and_distrib_right, and_MO_SIGN]
    have : x / 4 % 2 = 0 ∨ x / 4 % 2 = 1 := by omega
    rcases this with h | h <;> rw [h] <;> decide

/-- When the alignment assertion holds and the size fits the container,
`tcg_canonicalize_memop` returns: the size and the alignment bits are kept, the byte
order is kept above one byte, and the sign bit is kept or cleared. -/
theorem tcg_canonicalize_memop_ok (T : TCGTarget) (op : Nat) (is64 st : Bool)
    (hal : T.alignment_valid op = true) (h64 : is64 = false → op &&& MO_SIZE ≠ MO_64) :
    ∃ c, (∀ s, tcg_canonicalize_memop T op is64 st s = (some c, s)) ∧
      c &&& MO_SIZE = op &&& MO_SIZE ∧ c &&& MO_AMASK = op &&& MO_AMASK ∧
      (op &&& MO_SIZE = MO_8 ∨ c &&& MO_BSWAP = op &&& MO_BSWAP) ∧
      (c &&& MO_SIGN = op &&& MO_SIGN ∨
        (c &&& MO_SIGN = 0 ∧ (st = true ∨ (op &&& MO_SIZE = MO_32 ∧ is64 = false)))) := by
  obtain ⟨f1, f2, f3, f4, f5, f6, f7, f8⟩ := memop_clear_facts op
  obtain ⟨g1, g2, g3, g4, g5, g6, g7, g8⟩ := memop_clear_facts (op &&& bnot 32 MO_BSWAP)
  obtain ⟨k1, k2, k3, k4, k5, k6, k7, k8⟩ := memop_clear_facts (op &&& bnot 32 MO_SIGN)
  have h16 : MO_16 ≠ MO_8 := by decide
  have h32 : MO_32 ≠ MO_8 := by decide
  have h32' : MO_32 ≠ MO_16 := by decide
  have h64a : MO_64 ≠ MO_8 := by decide
  have h64b : MO_64 ≠ MO_16 := by decide
  have h64c : MO_64 ≠ MO_32 := by decide
  rcases memop_size_cases op with h | h | h | h
  · cases st
    · exact ⟨op &&& bnot 32 MO_BSWAP, fun s => by
        rw [tcg_canonicalize_memop_eq]; simp [hal, h], f4, f8, Or.inl h, Or.inl f6⟩
    · exact ⟨op &&& bnot 32 MO_BSWAP &&& bnot 32 MO_SIGN, fun s => by
        rw [tcg_canonicalize_memop_eq]; simp [hal, h], by rw [g3, f4], by rw [g7, f8],
        Or.inl h, Or.inr ⟨g1, Or.inl rfl⟩⟩
  · cases st
    · exact ⟨op, fun s => by
        rw [tcg_canonicalize_memop_eq]; simp [hal, h, h16], rfl, rfl, Or.inr rfl, Or.inl rfl⟩
    · exact ⟨op &&& bnot 32 MO_SIGN, fun s => by
        rw [tcg_canonicalize_memop_eq]; simp [hal, h, h16], f3, f7, Or.inr f5,
        Or.inr ⟨f1, Or.inl rfl⟩⟩
  · cases is64
    · exact ⟨op &&& bnot 32 MO_SIGN, fun s => by
        rw [tcg_canonicalize_memop_eq]
        cases st
        · simp [hal, h, h32, h32']
        · simp only [hal, h, h32, h32', if_true, if_false, Bool.false_eq_true]
          congr 2
          exact Nat.eq_of_testBit_eq (fun i => by
            simp only [Nat.testBit_and, Bool.and_assoc, Bool.and_self]),
        f3, f7, Or.inr f5, Or.inr ⟨f1, Or.inr ⟨h, rfl⟩⟩⟩
    · cases st
      · exact ⟨op, fun s => by
          rw [tcg_canonicalize_memop_eq]; simp [hal, h, h32, h32'], rfl, rfl, Or.inr rfl,
          Or.inl rfl⟩
      · exact ⟨op &&& bnot 32 MO_SIGN, fun s => by
          rw [tcg_canonicalize_memop_eq]; simp [hal, h, h32, h32'], f3, f7, Or.inr f5,
          Or.inr ⟨f1, Or.inl rfl⟩⟩
  · cases is64
    · exact absurd h (h64 rfl)
    · cases st
      · exact ⟨op, fun s => by
          rw [tcg_canonicalize_memop_eq]; simp [hal, h, h64a, h64b, h64c], rfl, rfl,
          Or.inr rfl, Or.inl rfl⟩
      · exact ⟨op &&& bnot 32 MO_SIGN, fun s => by
          rw [tcg_canonicalize_memop_eq]; simp [hal, h, h64a, h64b, h64c], f3, f7, Or.inr f5,
          Or.inr ⟨f1, Or.inl rfl⟩⟩

theorem get_memop_for_operation_facts (c : Nat) (g : GEN_OP_SIGN) :
    get_memop_for_operation c g &&& MO_SIZE = c &&& MO_SIZE ∧
    get_memop_for_operation c g &&& MO_AMASK = c &&& MO_AMASK ∧
    get_memop_for_operation c g &&& MO_BSWAP = c &&& MO_BSWAP ∧
    (decide (get_memop_for_operation c g &&& MO_SIGN ≠ 0) = g.extends_signed c ∨
      c &&& MO_SIZE = MO_64) := by
  obtain ⟨f1, f2, f3, f4, f5, f6, f7, f8⟩ := memop_clear_facts c
  obtain ⟨o1, o2, o3, o4⟩ := or_sign_fields c
  unfold get_memop_for_operation
  by_cases h : c &&& MO_SIZE = MO_Q
  · rw [if_pos (Or.inl h)]
    exact ⟨rfl, rfl, rfl, Or.inr h⟩
  · cases g
    · simp only [h, false_or, reduceCtorEq, if_false, if_true]
      refine ⟨o1, o3, o2, Or.inl ?_⟩
      rw [o4]
      rfl
    · simp only [h, false_or, reduceCtorEq, if_false]
      refine ⟨f3, f7, f5, Or.inl ?_⟩
      rw [f1]
      rfl
    · rw [if_pos (Or.inr rfl)]
      exact ⟨rfl, rfl, rfl, Or.inl rfl⟩

theorem extends_signed_congr (g : GEN_OP_SIGN) (x y : Nat) (h : x &&& MO_SIGN = y &&& MO_SIGN) :
    g.extends_signed x = g.extends_signed y := by
  unfold GEN_OP_SIGN.extends_signed
  rw [h]

/-- The three `MemOp`s of the sequential read-modify-write lowering (the canonical one,
the one of the load and the one of the store) exist when the alignment assertion holds,
and what they do to a load, a store and an extension, in terms of the caller's `MemOp`. -/
theorem rmw_fields (T : TCGTarget) (memop : Nat) (is64 : Bool) (g : GEN_OP_SIGN)
    (hal : ∀ x, x &&& MO_AMASK = memop &&& MO_AMASK → x &&& MO_SIZE = memop &&& MO_SIZE →
      T.alignment_valid x = true)
    (h64 : is64 = false → memop &&& MO_SIZE ≠ MO_64) :
    ∃ c d e, (∀ s, tcg_canonicalize_memop T memop is64 false s = (some c, s)) ∧
      (∀ s, tcg_canonicalize_memop T (get_memop_for_operation c g) is64 false s =
        (some d, s)) ∧
      (∀ s, tcg_canonicalize_memop T c is64 true s = (some e, s)) ∧
      0 < 8 * 2 ^ (memop &&& MO_SIZE) ∧
      8 * 2 ^ (memop &&& MO_SIZE) ≤ (if is64 = true then 64 else 32) ∧
      (∀ mem ea, mem_ld (if is64 = true then 64 else 32) mem ea d =
        extend_from (if is64 = true then 64 else 32) (8 * 2 ^ (memop &&& MO_SIZE))
          (g.extends_signed memop)
          (mem_ld (if is64 = true then 64 else 32) mem ea (memop &&& bnot 32 MO_SIGN))) ∧
      (∀ mem ea v, mem_st mem ea e v = mem_st mem ea memop v) ∧
      (∀ x, extend_from (if is64 = true then 64 else 32)
          (8 * 2 ^ (get_memop_for_operation c g &&& MO_SIZE))
          (decide (get_memop_for_operation c g &&& MO_SIGN ≠ 0)) x =
        extend_from (if is64 = true then 64 else 32) (8 * 2 ^ (memop &&& MO_SIZE))
          (g.extends_signed memop) x) ∧
      (∀ x, extend_from (if is64 = true then 64 else 32) (8 * 2 ^ (c &&& MO_SIZE))
          (decide (c &&& MO_SIGN ≠ 0)) x =
        extend_from (if is64 = true then 64 else 32) (8 * 2 ^ (memop &&& MO_SIZE))
          (decide (memop &&& MO_SIGN ≠ 0)) x) := by
  obtain ⟨c, hc, c1, c2, c3, c4⟩ := tcg_canonicalize_memop_ok T memop is64 false
    (hal memop rfl rfl) h64
  obtain ⟨t1, t2, t3, t4⟩ := get_memop_for_operation_facts c g
  obtain ⟨d, hd, d1, d2, d3, d4⟩ := tcg_canonicalize_memop_ok T (get_memop_for_operation c g)
    is64 false (hal _ (by rw [t2, c2]) (by rw [t1, c1]))
    (fun h => by rw [t1, c1]; exact h64 h)
  obtain ⟨e, he, e1, e2, e3, e4⟩ := tcg_canonicalize_memop_ok T c is64 true (hal _ c2 c1)
    (fun h => by rw [c1]; exact h64 h)
  have hpos : 0 < 8 * 2 ^ (memop &&& MO_SIZE) := by positivity
  have hle : 8 * 2 ^ (memop &&& MO_SIZE) ≤ (if is64 = true then 64 else 32) := by
    rcases memop_size_cases memop with h | h | h | h
    · rw [h]; cases is64 <;> decide
    · rw [h]; cases is64 <;> decide
    · rw [h]; cases is64 <;> decide
    · rw [h]
      cases is64
      · exact absurd h (h64 rfl)
      · decide
  have h32 : memop &&& MO_SIZE = MO_32 ∧ is64 = false →
      8 * 2 ^ (memop &&& MO_SIZE) = (if is64 = true then 64 else 32) := fun h => by
    rw [h.1, h.2]; decide
  have h64' : memop &&& MO_SIZE = MO_64 →
      8 * 2 ^ (memop &&& MO_SIZE) = (if is64 = true then 64 else 32) := fun h => by
    rw [h]
    cases is64
    · exact absurd h (h64 rfl)
    · decide
  have hcs : decide (c &&& MO_SIGN ≠ 0) = decide (memop &&& MO_SIGN ≠ 0) ∨
      8 * 2 ^ (memop &&& MO_SIZE) = (if is64 = true then 64 else 32) := by
    rcases c4 with h | ⟨_, h | h⟩
    · left; rw [h]
    · exact absurd h (by decide)
    · exact Or.inr (h32 h)
  have hts : decide (get_memop_for_operation c g &&& MO_SIGN ≠ 0) = g.extends_signed memop ∨
      8 * 2 ^ (memop &&& MO_SIZE) = (if is64 = true then 64 else 32) := by
    rcases t4 with h | h
    · rcases c4 with k | ⟨_, k | k⟩
      · left; rw [h]; exact extends_signed_congr g _ _ k
      · exact absurd k (by decide)
      · exact Or.inr (h32 k)
    · exact Or.inr (h64' (c1 ▸ h))
  have hds : decide (d &&& MO_SIGN ≠ 0) = g.extends_signed memop ∨
      8 * 2 ^ (memop &&& MO_SIZE) = (if is64 = true then 64 else 32) := by
    rcases d4 with h | ⟨_, h | h⟩
    · rcases hts with k | k
      · left; rw [h]; exact k
      · exact Or.inr k
    · exact absurd h (by decide)
    · exact Or.inr (h32 ⟨by rw [← c1, ← t1]; exact h.1, h.2⟩)
  have hdb : memop &&& MO_SIZE = MO_8 ∨ d &&& MO_BSWAP = memop &&& MO_BSWAP := by
    rcases d3 with h | h
    · left; rw [← c1, ← t1]; exact h
    · rcases c3 with k | k
      · exact Or.inl k
      · right; rw [h, t3, k]
  have heb : memop &&& MO_SIZE = MO_8 ∨ e &&& MO_BSWAP = memop &&& MO_BSWAP := by
    rcases e3 with h | h
    · left; rw [← c1]; exact h
    · rcases c3 with k | k
      · exact Or.inl k
      · right; rw [h, k]
  refine ⟨c, d, e, hc, hd, he, hpos, hle, fun mem ea => ?_, fun mem ea v => ?_, fun x => ?_,
    fun x => ?_⟩
  · exact mem_ld_as_extend _ mem ea d memop _ hle (by rw [d1, t1, c1]) hdb hds
  · exact mem_st_fields mem ea e memop v (by rw [e1, c1]) heb
  · rw [t1, c1]
    exact extend_from_sign _ _ _ _ _ hts
  · rw [c1]
    exact extend_from_sign _ _ _ _ _ hcs

theorem handle_conditional_invalidate_sem (T : TCGTarget) (addr memop eq n : Nat) :
    Sem (handle_conditional_invalidate T addr memop eq) n id := by
  unfold handle_conditional_invalidate
  apply Sem.ite
  · refine Sem.const_id memop (fun t ht => ?_)
    have hrest : Sem (if T.TARGET_MIPS = true ∨ T.TARGET_RISCV = true then
          gen_cheri_break_loadlink addr t >>= fun _ => tcg_temp_free_i32 t
        else (pure PUnit.unit : Gen PUnit) >>= fun _ => tcg_temp_free_i32 t) (t + 1) id := by
      split
      · exact Sem.bind_id (gen_cheri_break_loadlink_sem _ _ _) (Sem.free _ _)
      · exact Sem.bind_id (Sem.pure _) (Sem.free _ _)
    dsimp only
    split
    · exact Sem.bind_id
        (Sem.call_id .cheri_invalidate_tags_condition [addr, t, eq] _ (fun _ => rfl)) hrest
    · exact Sem.bind_id (Sem.pure _) hrest
  · exact Sem.pure n

/-- The part of the sequential compare-and-swap between the load and the conditional
move (the `equal` flag of a CHERI build and the conditional invalidation hook) leaves
memory and the temporaries of the caller alone. -/
theorem cmpxchg_hook_i32 (T : TCGTarget) {n a b : Nat} (addr memop : Nat) (k : Gen Unit)
    {F : Machine → Machine} (ha : a < n) (hb : b < n) (hk : Sem k n F) :
    Sem ((if T.TARGET_CHERI = true then
          (tcg_temp_new_i32 >>= fun equal =>
            tcg_gen_setcond_i32 .EQ equal a b >>= fun _ => pure equal)
        else pure 0) >>= fun equal =>
      handle_conditional_invalidate T addr memop equal >>= fun _ =>
      if T.TARGET_CHERI = true then (tcg_temp_free_i32 equal >>= fun _ => k)
      else ((pure PUnit.unit : Gen PUnit) >>= fun _ => k)) n F := by
  cases T.TARGET_CHERI
  · simp only [Bool.false_eq_true, if_false, Gen.pure_bind]
    exact Sem.bind_pre (handle_conditional_invalidate_sem T addr memop 0 n) hk
  · simp only [if_true, Gen.bind_assoc, Gen.pure_bind]
    refine Sem.new (F := fun t => ((F ∘ id) ∘ id) ∘
      (fun m => m.set t (if TCGCond.EQ.eval 32 (m.regs a) (m.regs b) then 1 else 0)))
      hk.1 (fun t ht => ?_) (fun t ht m => ?_)
    · exact Sem.bind (tcg_gen_setcond_i32_sem .EQ (by omega) (by omega))
        (Sem.bind (handle_conditional_invalidate_sem T addr memop t (t + 1))
          (Sem.bind (Sem.free t (t + 1)) (hk.weaken (by omega))))
    · simp only [Function.comp, id]
      exact hk.1 t ht _ _ ⟨rfl, fun i hi => Machine.set_regs_ne _ _ (by omega)⟩

theorem size_fields (x : Nat) :
    (x &&& MO_SIZE) &&& MO_SIZE = x &&& MO_SIZE ∧ (x &&& MO_SIZE) &&& MO_SIGN = 0 := by
  constructor
  · rw [and_MO_SIZE, and_MO_SIZE]; omega
  · rw [and_MO_SIGN, and_MO_SIZE]; omega

/-- The sequential compare-and-swap into a 32-bit container: the ops emitted and their
effect on memory and on the temporaries of the caller. -/
theorem tcg_gen_atomic_cmpxchg_i32_seq (T : TCGTarget) {retv addr cmpv newv : Nat}
    (idx memop c d e : Nat) (s : TCGContext) (hseq : s.tb_cflags &&& CF_PARALLEL = 0)
    (hidx : idx < 16)
    (hc : ∀ s, tcg_canonicalize_memop T memop false false s = (some c, s))
    (hd : ∀ s, tcg_canonicalize_memop T (c &&& bnot 32 MO_SIGN) false false s = (some d, s))
    (he : ∀ s, tcg_canonicalize_memop T c false true s = (some e, s))
    (hr : retv < s.nb_temps) (hcm : cmpv < s.nb_temps) (hnv : newv < s.nb_temps)
    (ha : addr + T.aw ≤ s.nb_temps) :
    ∃ δ k, tcg_gen_atomic_cmpxchg_i32_with_checked_addr T retv addr cmpv newv idx memop s =
        (some (), s.extend δ k) ∧
      ∀ m, Agree s.nb_temps (run δ m)
        (({ m with mem := (mem_st m.mem (T.ea m addr) e
            (if TCGCond.EQ.eval 32 (mem_ld 32 m.mem (T.ea m addr) d)
                (m.regs cmpv % 2 ^ (8 * 2 ^ (c &&& MO_SIZE)))
              then m.regs newv % 2 ^ 32 else mem_ld 32 m.mem (T.ea m addr) d % 2 ^ 32)) } :
          Machine).set retv
          (if c &&& MO_SIGN ≠ 0 then
            extend_from 32 (8 * 2 ^ (c &&& MO_SIZE)) true (mem_ld 32 m.mem (T.ea m addr) d)
          else mem_ld 32 m.mem (T.ea m addr) d % 2 ^ 32)) := by
  have haw := aw_pos T
  obtain ⟨_, hc64, _⟩ := canonical_ld_i32_facts T memop c (TCGContext.fresh 0) (hc _)
  obtain ⟨k1, k2⟩ := size_fields c
  have hL : Local s.nb_temps (fun m => ({ m with mem := (mem_st m.mem (T.ea m addr) e
            (if TCGCond.EQ.eval 32 (mem_ld 32 m.mem (T.ea m addr) d)
                (m.regs cmpv % 2 ^ (8 * 2 ^ (c &&& MO_SIZE)))
              then m.regs newv % 2 ^ 32 else mem_ld 32 m.mem (T.ea m addr) d % 2 ^ 32)) } :
          Machine).set retv
          (if c &&& MO_SIGN ≠ 0 then
            extend_from 32 (8 * 2 ^ (c &&& MO_SIZE)) true (mem_ld 32 m.mem (T.ea m addr) d)
          else mem_ld 32 m.mem (T.ea m addr) d % 2 ^ 32)) := by
    intro N hN m m' h
    have e1 := (h.mono hN).ea T ha
    have e2 := h.1
    have e3 := h.2 cmpv (by omega)
    have e4 := h.2 newv (by omega)
    simp only [e1, e2, e3, e4]
    refine ⟨rfl, fun i hi => ?_⟩
    simp only [Machine.set_regs]
    split
    · rfl
    · exact h.2 i hi
  unfold tcg_gen_atomic_cmpxchg_i32_with_checked_addr
  rw [Gen.bind_apply, hc s, Gen.andThen_some, Gen.bind_apply]
  simp only [tb_cflags, Gen.andThen_some, hseq, if_true]
  refine (show Sem _ s.nb_temps _ from ?_).2 s (le_refl _)
  refine Sem.new2 (F := fun t m => ((({ m with mem := (mem_st m.mem (T.ea m addr) e
            (if TCGCond.EQ.eval 32 (mem_ld 32 m.mem (T.ea m addr) d)
                (m.regs cmpv % 2 ^ (8 * 2 ^ (c &&& MO_SIZE)))
              then m.regs newv % 2 ^ 32 else mem_ld 32 m.mem (T.ea m addr) d % 2 ^ 32)) } :
          Machine).set (t + 1) (if TCGCond.EQ.eval 32 (mem_ld 32 m.mem (T.ea m addr) d)
                (m.regs cmpv % 2 ^ (8 * 2 ^ (c &&& MO_SIZE)))
              then m.regs newv % 2 ^ 32 else mem_ld 32 m.mem (T.ea m addr) d % 2 ^ 32)).set t
            (mem_ld 32 m.mem (T.ea m addr) d)).set retv
          (if c &&& MO_SIGN ≠ 0 then
            extend_from 32 (8 * 2 ^ (c &&& MO_SIZE)) true (mem_ld 32 m.mem (T.ea m addr) d)
          else mem_ld 32 m.mem (T.ea m addr) d % 2 ^ 32))
    hL (fun t ht => ?body) (fun t ht m => ?agree)
  case agree =>
    refine ⟨rfl, fun i hi => ?_⟩
    simp only [Machine.set_regs]
    have d5 : i ≠ t := by omega
    have d6 : i ≠ t + 1 := by omega
    simp only [d5, d6, if_false]
  case body =>
    have hret : Sem (if c &&& MO_SIGN ≠ 0 then
          tcg_gen_ext_i32 T retv t c >>= fun _ => tcg_temp_free_i32 t
        else tcg_gen_mov_i32 retv t >>= fun _ => tcg_temp_free_i32 t) (t + 2)
        (fun m => m.set retv (if c &&& MO_SIGN ≠ 0 then
            extend_from 32 (8 * 2 ^ (c &&& MO_SIZE)) true (m.regs t)
          else m.regs t % 2 ^ 32)) := by
      split
      · rename_i hsg
        refine (Sem.bind_post (tcg_gen_ext_i32_sem T (r := retv) (a := t) (n := t + 2) c hc64
          (by omega) (by omega)) (Sem.free t (t + 2))).conseq (fun N _ m => ?_)
        simp only [hsg, ne_eq, not_false_eq_true, decide_True]
        exact Agree.refl _ _
      · exact Sem.bind_post (tcg_gen_mov_i32_sem (by omega)) (Sem.free t (t + 2))
    refine (Sem.bind (tcg_gen_ext_i32_sem T (r := t + 1) (a := cmpv) (n := t + 2)
        (c &&& MO_SIZE) (by rw [k1]; exact hc64) (by omega) (by omega))
      (Sem.bind (@tcg_gen_qemu_ld_i32_sem T t addr (t + 2) idx _ d hidx hd (by omega)
        (by omega))
      (cmpxchg_hook_i32 T addr c _ (show t < t + 2 by omega) (show t + 1 < t + 2 by omega)
        (Sem.bind (@tcg_gen_movcond_i32_sem T (t + 1) t (t + 1) newv t (t + 2) .EQ (by omega)
          (by omega) (by omega) (by omega) (by omega))
        (Sem.bind (@tcg_gen_qemu_st_i32_sem T (t + 1) addr (t + 2) idx c e false hidx he
          (by omega) (by omega))
        (Sem.bind (Sem.free (t + 1) (t + 2)) hret)))))).conseq (fun N hN m => ?_)
    simp (disch := omega) only [Function.comp, id, ea_set_ge, Machine.set_regs_self,
      Machine.set_regs_ne, Machine.set_mem, k1, k2]
    have hx : ∀ x, extend_from 32 (8 * 2 ^ (c &&& MO_SIZE)) (decide ((0 : Nat) ≠ 0)) x =
        x % 2 ^ (8 * 2 ^ (c &&& MO_SIZE)) := fun x => by simp [extend_from]
    simp only [hx]
    refine ⟨rfl, fun i hi => ?_⟩
    simp only [Machine.set_regs]
    split_ifs <;> first | rfl | omega

/-- The 64-bit form of the part between the load and the conditional move. -/
theorem cmpxchg_hook_i64 (T : TCGTarget) {n a b : Nat} (addr memop : Nat) (k : Gen Unit)
    {F : Machine → Machine} (ha : a + T.w64 ≤ n) (hb : b + T.w64 ≤ n) (hk : Sem k n F) :
    Sem ((if T.TARGET_CHERI = true then
          (tcg_temp_new_i32 >>= fun equal => tcg_temp_new_i64 T >>= fun equal64 =>
            tcg_gen_setcond_i64 T .EQ equal64 a b >>= fun _ =>
            tcg_gen_extrl_i64_i32 T equal equal64 >>= fun _ =>
            tcg_temp_free_i64 equal64 >>= fun _ => pure equal)
        else pure 0) >>= fun equal =>
      handle_conditional_invalidate T addr memop equal >>= fun _ =>
      if T.TARGET_CHERI = true then (tcg_temp_free_i32 equal >>= fun _ => k)
      else ((pure PUnit.unit : Gen PUnit) >>= fun _ => k)) n F := by
  have hw1 := w64_pos T
  cases T.TARGET_CHERI
  · simp only [Bool.false_eq_true, if_false, Gen.pure_bind]
    exact Sem.bind_pre (handle_conditional_invalidate_sem T addr memop 0 n) hk
  · simp only [if_true, Gen.bind_assoc, Gen.pure_bind]
    refine Sem.new (F := fun t => F ∘ (fun m => m.set t
        ((if TCGCond.EQ.eval 64 (m.get64 T a) (m.get64 T b) then 1 else 0) % 2 ^ 64 % 2 ^ 32)))
      hk.1 (fun t ht => ?_) (fun t ht m => ?_)
    · refine Sem.new64 T (F := fun u => ((((F ∘ id) ∘ id) ∘ id) ∘
          (fun m => m.set t (m.get64 T u % 2 ^ 32))) ∘
          (fun m => m.set64 T u
            (if TCGCond.EQ.eval 64 (m.get64 T a) (m.get64 T b) then 1 else 0)))
        (fun u hu => ?_) (fun u hu m => ?_) ?_
      · exact Sem.bind (tcg_gen_setcond_i64_sem T .EQ (by omega) (by omega))
          (Sem.bind (tcg_gen_extrl_i64_i32_sem T (by omega))
          (Sem.bind (Sem.free64 u (u + T.w64))
          (Sem.bind (handle_conditional_invalidate_sem T addr memop t (u + T.w64))
          (Sem.bind (Sem.free t (u + T.w64)) (hk.weaken (by omega))))))
      · simp only [Function.comp, id, Machine.get64_set64_self]
        refine hk.1 u (by omega) _ _ ⟨?_, fun i hi => ?_⟩
        · show (Machine.set64 T m u _).mem = m.mem
          exact Machine.set64_mem T m u _
        · simp only [Machine.set_regs]
          split
          · rfl
          · exact Machine.set64_regs_ne T m _ (Or.inl hi)
      · refine Local.comp (Local.set_of t (fun m m' h => ?_)) (hk.1.mono_temps (by omega))
        rw [h.get64 T (show a + T.w64 ≤ t + 1 by omega),
          h.get64 T (show b + T.w64 ≤ t + 1 by omega)]
    · simp only [Function.comp]
      exact hk.1 t ht _ _ ⟨rfl, fun i hi => Machine.set_regs_ne _ _ (by omega)⟩

/-- The sequential compare-and-swap into a 64-bit container: the ops emitted and their
effect on memory and on the temporaries of the caller. -/
theorem tcg_gen_atomic_cmpxchg_i64_seq (T : TCGTarget) {retv addr cmpv newv : Nat}
    (idx memop c d e : Nat) (s : TCGContext) (hseq : s.tb_cflags &&& CF_PARALLEL = 0)
    (hidx : idx < 16)
    (hc : ∀ s, tcg_canonicalize_memop T memop true false s = (some c, s))
    (hd : ∀ s, tcg_canonicalize_memop T (c &&& bnot 32 MO_SIGN) true false s = (some d, s))
    (he : ∀ s, tcg_canonicalize_memop T c true true s = (some e, s))
    (hr : retv + T.w64 ≤ s.nb_temps) (hcm : cmpv + T.w64 ≤ s.nb_temps)
    (hnv : newv + T.w64 ≤ s.nb_temps) (ha : addr + T.aw ≤ s.nb_temps) :
    ∃ δ k, tcg_gen_atomic_cmpxchg_i64_with_checked_addr T retv addr cmpv newv idx memop s =
        (some (), s.extend δ k) ∧
      ∀ m, Agree s.nb_temps (run δ m)
        (({ m with mem := (mem_st m.mem (T.ea m addr) e
            ((if TCGCond.EQ.eval 64 (mem_ld 64 m.mem (T.ea m addr) d % 2 ^ 64)
                (extend_from 64 (8 * 2 ^ (c &&& MO_SIZE)) false (m.get64 T cmpv) % 2 ^ 64)
              then m.get64 T newv else mem_ld 64 m.mem (T.ea m addr) d % 2 ^ 64) % 2 ^ 64)) } :
          Machine).set64 T retv
          (if c &&& MO_SIGN ≠ 0 then
            extend_from 64 (8 * 2 ^ (c &&& MO_SIZE)) true
              (mem_ld 64 m.mem (T.ea m addr) d % 2 ^ 64)
          else mem_ld 64 m.mem (T.ea m addr) d % 2 ^ 64)) := by
  have haw := aw_pos T
  have hw1 := w64_pos T
  obtain ⟨k1, k2⟩ := size_fields c
  have hL : Local s.nb_temps (fun m => ({ m with mem := (mem_st m.mem (T.ea m addr) e
            ((if TCGCond.EQ.eval 64 (mem_ld 64 m.mem (T.ea m addr) d % 2 ^ 64)
                (extend_from 64 (8 * 2 ^ (c &&& MO_SIZE)) false (m.get64 T cmpv) % 2 ^ 64)
              then m.get64 T newv else mem_ld 64 m.mem (T.ea m addr) d % 2 ^ 64) % 2 ^ 64)) } :
          Machine).set64 T retv
          (if c &&& MO_SIGN ≠ 0 then
            extend_from 64 (8 * 2 ^ (c &&& MO_SIZE)) true
              (mem_ld 64 m.mem (T.ea m addr) d % 2 ^ 64)
          else mem_ld 64 m.mem (T.ea m addr) d % 2 ^ 64)) := by
    intro N hN m m' h
    have e1 := (h.mono hN).ea T ha
    have e2 := h.1
    have e3 := (h.mono hN).get64 T hcm
    have e4 := (h.mono hN).get64 T hnv
    simp only [e1, e2, e3, e4]
    exact Agree.of_set64 T rfl rfl (fun i hi _ => h.2 i hi)
  unfold tcg_gen_atomic_cmpxchg_i64_with_checked_addr
  rw [Gen.bind_apply, hc s, Gen.andThen_some, Gen.bind_apply]
  simp only [tb_cflags, Gen.andThen_some, hseq, if_true]
  refine (show Sem _ s.nb_temps _ from ?_).2 s (le_refl _)
  refine Sem.new64_2 T (F := fun t m => (⟨((((m.set64 T (t + T.w64)
          (extend_from 64 (8 * 2 ^ (c &&& MO_SIZE)) false (m.get64 T cmpv))).set64 T t
          (mem_ld 64 m.mem (T.ea m addr) d)).set64 T (t + T.w64)
          (if TCGCond.EQ.eval 64 (mem_ld 64 m.mem (T.ea m addr) d % 2 ^ 64)
              (extend_from 64 (8 * 2 ^ (c &&& MO_SIZE)) false (m.get64 T cmpv) % 2 ^ 64)
            then m.get64 T newv else mem_ld 64 m.mem (T.ea m addr) d % 2 ^ 64)).regs),
        (mem_st m.mem (T.ea m addr) e
            ((if TCGCond.EQ.eval 64 (mem_ld 64 m.mem (T.ea m addr) d % 2 ^ 64)
                (extend_from 64 (8 * 2 ^ (c &&& MO_SIZE)) false (m.get64 T cmpv) % 2 ^ 64)
              then m.get64 T newv else mem_ld 64 m.mem (T.ea m addr) d % 2 ^ 64) % 2 ^ 64))⟩ :
          Machine).set64 T retv
          (if c &&& MO_SIGN ≠ 0 then
            extend_from 64 (8 * 2 ^ (c &&& MO_SIZE)) true
              (mem_ld 64 m.mem (T.ea m addr) d % 2 ^ 64)
          else mem_ld 64 m.mem (T.ea m addr) d % 2 ^ 64))
    (fun t ht => ?body) (fun t ht m => ?agree) hL
  case agree =>
    refine Agree.of_set64 T rfl rfl (fun i hi _ => ?_)
    show (Machine.set64 T (Machine.set64 T (Machine.set64 T m (t + T.w64) _) t _)
      (t + T.w64) _).regs i = m.regs i
    rw [Machine.set64_regs_ne T _ _ (Or.inl (by omega)),
      Machine.set64_regs_ne T _ _ (Or.inl (by omega)),
      Machine.set64_regs_ne T _ _ (Or.inl (by omega))]
  case body =>
    have hret : Sem (if c &&& MO_SIGN ≠ 0 then
          tcg_gen_ext_i64 T retv t c >>= fun _ => tcg_temp_free_i64 t
        else tcg_gen_mov_i64 T retv t >>= fun _ => tcg_temp_free_i64 t) (t + T.w64 + T.w64)
        (fun m => m.set64 T retv (if c &&& MO_SIGN ≠ 0 then
            extend_from 64 (8 * 2 ^ (c &&& MO_SIZE)) true (m.get64 T t)
          else m.get64 T t)) := by
      split
      · rename_i hsg
        refine (Sem.bind_post (tcg_gen_ext_i64_sem T (r := retv) (a := t)
          (n := t + T.w64 + T.w64) c (by omega) (by omega) (by omega))
          (Sem.free64 t (t + T.w64 + T.w64))).conseq (fun N _ m => ?_)
        simp only [hsg, ne_eq, not_false_eq_true, decide_True]
        exact Agree.refl _ _
      · exact Sem.bind_post (tcg_gen_mov_i64_sem T (by omega) (by omega))
          (Sem.free64 t (t + T.w64 + T.w64))
    refine (Sem.bind (tcg_gen_ext_i64_sem T (r := t + T.w64) (a := cmpv)
        (n := t + T.w64 + T.w64) (c &&& MO_SIZE) (by omega) (by omega) (by omega))
      (Sem.bind (@tcg_gen_qemu_ld_i64_sem T t addr (t + T.w64 + T.w64) idx _ d hidx hd
        (by omega) (by omega))
      (cmpxchg_hook_i64 T addr c _ (show t + T.w64 ≤ t + T.w64 + T.w64 by omega)
        (show t + T.w64 + T.w64 ≤ t + T.w64 + T.w64 by omega)
        (Sem.bind (@tcg_gen_movcond_i64_sem T (t + T.w64) t (t + T.w64) newv t
          (t + T.w64 + T.w64) .EQ (by omega) (by omega) (by omega) (by omega) (by omega)
          (by omega) (by omega))
        (Sem.bind (@tcg_gen_qemu_st_i64_sem T (t + T.w64) addr (t + T.w64 + T.w64) idx c e
          false hidx he (by omega) (by omega))
        (Sem.bind (Sem.free64 (t + T.w64) (t + T.w64 + T.w64)) hret)))))).conseq
      (fun N hN m => ?_)
    simp (disch := omega) only [Function.comp, id, ea_set64_ge, Machine.get64_set64_self,
      Machine.get64_set64_ne, Machine.set64_mem, Machine.get64_with_mem, k1, k2]
    exact Agree.refl _ _

/-- The three `MemOp`s of the sequential compare-and-swap (the canonical one, the one of
the unsigned load and the one of the store) exist when the alignment assertion holds, and
what they do to a load, a store and an extension, in terms of the caller's `MemOp`. -/
theorem cmpxchg_fields (T : TCGTarget) (memop : Nat) (is64 : Bool)
    (hal : ∀ x, x &&& MO_AMASK = memop &&& MO_AMASK → x &&& MO_SIZE = memop &&& MO_SIZE →
      T.alignment_valid x = true)
    (h64 : is64 = false → memop &&& MO_SIZE ≠ MO_64) :
    ∃ c d e, (∀ s, tcg_canonicalize_memop T memop is64 false s = (some c, s)) ∧
      (∀ s, tcg_canonicalize_memop T (c &&& bnot 32 MO_SIGN) is64 false s = (some d, s)) ∧
      (∀ s, tcg_canonicalize_memop T c is64 true s = (some e, s)) ∧
      0 < 8 * 2 ^ (memop &&& MO_SIZE) ∧
      8 * 2 ^ (memop &&& MO_SIZE) ≤ (if is64 = true then 64 else 32) ∧
      c &&& MO_SIZE = memop &&& MO_SIZE ∧
      (∀ mem ea, mem_ld (if is64 = true then 64 else 32) mem ea d =
        mem_ld (if is64 = true then 64 else 32) mem ea (memop &&& bnot 32 MO_SIGN)) ∧
      (∀ mem ea v, mem_st mem ea e v = mem_st mem ea memop v) ∧
      (decide (c &&& MO_SIGN ≠ 0) = decide (memop &&& MO_SIGN ≠ 0) ∨
        8 * 2 ^ (memop &&& MO_SIZE) = (if is64 = true then 64 else 32)) := by
  obtain ⟨c, hc, c1, c2, c3, c4⟩ := tcg_canonicalize_memop_ok T memop is64 false
    (hal memop rfl rfl) h64
  obtain ⟨f1, f2, f3, f4, f5, f6, f7, f8⟩ := memop_clear_facts c
  obtain ⟨d, hd, d1, d2, d3, d4⟩ := tcg_canonicalize_memop_ok T (c &&& bnot 32 MO_SIGN)
    is64 false (hal _ (by rw [f7, c2]) (by rw [f3, c1]))
    (fun h => by rw [f3, c1]; exact h64 h)
  obtain ⟨e, he, e1, e2, e3, e4⟩ := tcg_canonicalize_memop_ok T c is64 true (hal _ c2 c1)
    (fun h => by rw [c1]; exact h64 h)
  have hpos : 0 < 8 * 2 ^ (memop &&& MO_SIZE) := by positivity
  have hle : 8 * 2 ^ (memop &&& MO_SIZE) ≤ (if is64 = true then 64 else 32) := by
    rcases memop_size_cases memop with h | h | h | h
    · rw [h]; cases is64 <;> decide
    · rw [h]; cases is64 <;> decide
    · rw [h]; cases is64 <;> decide
    · rw [h]
      cases is64
      · exact absurd h (h64 rfl)
      · decide
  have h32 : memop &&& MO_SIZE = MO_32 ∧ is64 = false →
      8 * 2 ^ (memop &&& MO_SIZE) = (if is64 = true then 64 else 32) := fun h => by
    rw [h.1, h.2]; decide
  have hcs : decide (c &&& MO_SIGN ≠ 0) = decide (memop &&& MO_SIGN ≠ 0) ∨
      8 * 2 ^ (memop &&& MO_SIZE) = (if is64 = true then 64 else 32) := by
    rcases c4 with h | ⟨_, h | h⟩
    · left; rw [h]
    · exact absurd h (by decide)
    · exact Or.inr (h32 h)
  have hds : d &&& MO_SIGN = 0 := by
    rcases d4 with h | h
    · rw [h]; exact f1
    · exact h.1
  have hdb : memop &&& MO_SIZE = MO_8 ∨ d &&& MO_BSWAP = memop &&& MO_BSWAP := by
    rcases d3 with h | h
    · left; rw [← c1, ← f3]; exact h
    · rcases c3 with k | k
      · exact Or.inl k
      · right; rw [h, f5, k]
  have heb : memop &&& MO_SIZE = MO_8 ∨ e &&& MO_BSWAP = memop &&& MO_BSWAP := by
    rcases e3 with h | h
    · left; rw [← c1]; exact h
    · rcases c3 with k | k
      · exact Or.inl k
      · right; rw [h, k]
  refine ⟨c, d, e, hc, hd, he, hpos, hle, c1, fun mem ea => ?_, fun mem ea v => ?_, hcs⟩
  · rw [mem_ld_as_extend _ mem ea d memop false hle (by rw [d1, f3, c1]) hdb
      (Or.inl (by rw [hds]; rfl))]
    unfold extend_from
    simp only [Bool.false_eq_true, if_false]
    exact Nat.mod_eq_of_lt (mem_ld_eq_extend _ mem ea memop hle).2
  · exact mem_st_fields mem ea e memop v (by rw [e1, c1]) heb

theorem eval_EQ_iff (w a b : Nat) (ha : a < 2 ^ w) (hb : b < 2 ^ w) :
    TCGCond.EQ.eval w a b = true ↔ a = b := by
  unfold TCGCond.eval
  simp only [Nat.mod_eq_of_lt ha, Nat.mod_eq_of_lt hb, beq_iff_eq]

theorem exec_atomic_call (NAME : AtomicName) (args : List TCGArg) (m : Machine) :
    exec_op ⟨.call, NAME.helper.toCtorIdx :: args⟩ m =
      exec_atomic NAME.helper ⟨.call, NAME.helper.toCtorIdx :: args⟩ m := by
  cases NAME <;> rfl

theorem atomic_new_rmw (NAME : AtomicName) (bits old v v2 : Nat) :
    atomic_new NAME.helper bits old v v2 = NAME.op bits old v := by
  cases NAME <;> rfl

theorem atomic_returns_new_rmw (NAME : AtomicName) :
    atomic_returns_new NAME.helper = NAME.NEW := by
  cases NAME <;> rfl

/-- The effect of the call op of a read-modify-write routine on 32-bit values. -/
theorem exec_atomic_i32 (T : TCGTarget) (NAME : AtomicName) (key ret addr val : Nat)
    (oi : List TCGArg) (m : Machine) :
    exec_op ⟨.call, NAME.helper.toCtorIdx ::
        ([key, 1, (tl_args T addr).length, ret] ++ tl_args T addr ++ [val] ++ oi)⟩ m =
      ({ m with mem := (stn m.mem (T.addr_val m addr) (2 ^ (key &&& MO_SIZE))
          (if key &&& MO_BSWAP ≠ 0 then bswap_size (key &&& MO_SIZE)
              (NAME.op (8 * 2 ^ (key &&& MO_SIZE))
                (if key &&& MO_BSWAP ≠ 0 then bswap_size (key &&& MO_SIZE)
                  (ldn m.mem (T.addr_val m addr) (2 ^ (key &&& MO_SIZE)))
                 else ldn m.mem (T.addr_val m addr) (2 ^ (key &&& MO_SIZE)))
                (m.regs val % 2 ^ 64 % 2 ^ (8 * 2 ^ (key &&& MO_SIZE))))
           else NAME.op (8 * 2 ^ (key &&& MO_SIZE))
                (if key &&& MO_BSWAP ≠ 0 then bswap_size (key &&& MO_SIZE)
                  (ldn m.mem (T.addr_val m addr) (2 ^ (key &&& MO_SIZE)))
                 else ldn m.mem (T.addr_val m addr) (2 ^ (key &&& MO_SIZE)))
                (m.regs val % 2 ^ 64 % 2 ^ (8 * 2 ^ (key &&& MO_SIZE))))) } : Machine).set ret
        (if NAME.NEW = true then
          NAME.op (8 * 2 ^ (key &&& MO_SIZE))
            (if key &&& MO_BSWAP ≠ 0 then bswap_size (key &&& MO_SIZE)
              (ldn m.mem (T.addr_val m addr) (2 ^ (key &&& MO_SIZE)))
             else ldn m.mem (T.addr_val m addr) (2 ^ (key &&& MO_SIZE)))
            (m.regs val % 2 ^ 64 % 2 ^ (8 * 2 ^ (key &&& MO_SIZE)))
         else (if key &&& MO_BSWAP ≠ 0 then bswap_size (key &&& MO_SIZE)
              (ldn m.mem (T.addr_val m addr) (2 ^ (key &&& MO_SIZE)))
             else ldn m.mem (T.addr_val m addr) (2 ^ (key &&& MO_SIZE)))) := by
  rw [exec_atomic_call]
  unfold exec_atomic TCGTarget.addr_val
  by_cases h : T.target_long64 = true ∧ ¬T.reg64 = true
  · have e : tl_args T addr = [TCGV_LOW addr, TCGV_HIGH addr] := by
      unfold tl_args; rw [if_pos h]
    simp only [e, if_pos h]
    simp [atomic_new_rmw, atomic_returns_new_rmw, TCGV_LOW, TCGV_HIGH]
  · have e : tl_args T addr = [addr] := by
      unfold tl_args; rw [if_neg h]
    simp only [e, if_neg h]
    simp [atomic_new_rmw, atomic_returns_new_rmw]

theorem AtomicName.op_lt (NAME : AtomicName) (w x y : Nat) (hx : x < 2 ^ w) (hy : y < 2 ^ w) :
    NAME.op w x y < 2 ^ w := by
  cases NAME <;> simp only [AtomicName.op]
  case fetch_add => exact Nat.mod_lt _ (Nat.two_pow_pos _)
  case add_fetch => exact Nat.mod_lt _ (Nat.two_pow_pos _)
  case fetch_and => exact Nat.and_lt_two_pow _ hy
  case and_fetch => exact Nat.and_lt_two_pow _ hy
  case fetch_or => exact Nat.or_lt_two_pow hx hy
  case or_fetch => exact Nat.or_lt_two_pow hx hy
  case fetch_xor => exact Nat.xor_lt_two_pow hx hy
  case xor_fetch => exact Nat.xor_lt_two_pow hx hy
  case xchg => exact hy
  all_goals split <;> assumption

theorem size_bits_le_64 (x : Nat) : 8 * 2 ^ (x &&& MO_SIZE) ≤ 64 := by
  rcases memop_size_cases x with h | h | h | h <;> rw [h] <;> decide

theorem mem_ld_raw (w : Nat) (mem : Nat → Nat) (ea x : Nat)
    (hw : 8 * 2 ^ (x &&& MO_SIZE) ≤ w) (hs : x &&& MO_SIGN = 0) :
    (if x &&& MO_BSWAP ≠ 0 then bswap_size (x &&& MO_SIZE) (ldn mem ea (2 ^ (x &&& MO_SIZE)))
      else ldn mem ea (2 ^ (x &&& MO_SIZE))) = mem_ld w mem ea x := by
  have hv := lt_of_lt_of_le (mem_ld_raw_lt mem ea x) (Nat.pow_le_pow_right (by norm_num) hw)
  unfold mem_ld
  simp only [hs, ne_eq, not_true_eq_false, if_false]
  exact (Nat.mod_eq_of_lt hv).symm

theorem mem_st_raw (mem : Nat → Nat) (ea x v : Nat) (hv : v < 2 ^ (8 * 2 ^ (x &&& MO_SIZE))) :
    stn mem ea (2 ^ (x &&& MO_SIZE))
      (if x &&& MO_BSWAP ≠ 0 then bswap_size (x &&& MO_SIZE) v else v) = mem_st mem ea x v := by
  unfold mem_st
  simp only [Nat.mod_eq_of_lt hv]

/-- The call of a read-modify-write routine on 32-bit values: the routine of key `key`
reads the prior value at the address, stores the result of the operation on the prior
value and the operand truncated to the access size, and returns the prior or the new
value. -/
theorem gen_helper_atomic_i32_sem (T : TCGTarget) (NAME : AtomicName) {r a v n : Nat}
    (key w : Nat) (oi : List TCGArg) (hk : key &&& MO_SIGN = 0)
    (hw : 8 * 2 ^ (key &&& MO_SIZE) ≤ w) (hv : v < n) (ha : a + T.aw ≤ n) :
    Sem (gen_helper_atomic_i32 T (NAME.helper, key) r a [v] oi) n
      (fun m => ({ m with mem := (mem_st m.mem (T.addr_val m a) key
          (NAME.op (8 * 2 ^ (key &&& MO_SIZE)) (mem_ld w m.mem (T.addr_val m a) key)
            (m.regs v % 2 ^ (8 * 2 ^ (key &&& MO_SIZE))))) } : Machine).set r
        (if NAME.NEW = true then
          NAME.op (8 * 2 ^ (key &&& MO_SIZE)) (mem_ld w m.mem (T.addr_val m a) key)
            (m.regs v % 2 ^ (8 * 2 ^ (key &&& MO_SIZE)))
         else mem_ld w m.mem (T.addr_val m a) key)) := by
  have h64 := size_bits_le_64 key
  have hE : exec_op ⟨.call, NAME.helper.toCtorIdx ::
        ([key, 1, (tl_args T a).length, r] ++ tl_args T a ++ [v] ++ oi)⟩ =
      (fun m => ({ m with mem := (mem_st m.mem (T.addr_val m a) key
          (NAME.op (8 * 2 ^ (key &&& MO_SIZE)) (mem_ld w m.mem (T.addr_val m a) key)
            (m.regs v % 2 ^ (8 * 2 ^ (key &&& MO_SIZE))))) } : Machine).set r
        (if NAME.NEW = true then
          NAME.op (8 * 2 ^ (key &&& MO_SIZE)) (mem_ld w m.mem (T.addr_val m a) key)
            (m.regs v % 2 ^ (8 * 2 ^ (key &&& MO_SIZE)))
         else mem_ld w m.mem (T.addr_val m a) key)) := by
    funext m
    have hU := (mem_ld_eq_extend w m.mem (T.addr_val m a) key hw).2
    rw [exec_atomic_i32, mem_ld_raw w m.mem (T.addr_val m a) key hw hk,
      Nat.mod_mod_of_dvd _ (Nat.pow_dvd_pow 2 h64)]
    rw [mem_st_raw]
    refine AtomicName.op_lt NAME _ _ _ ?_ (Nat.mod_lt _ (Nat.two_pow_pos _))
    have e : key &&& bnot 32 MO_SIGN &&& MO_SIZE = key &&& MO_SIZE :=
      (memop_clear_facts key).2.2.1
    have := (mem_ld_eq_extend w m.mem (T.addr_val m a) key hw).1
    rw [this, hk]
    unfold extend_from
    simp only [ne_eq, not_true_eq_false, decide_False, Bool.false_eq_true, if_false]
    exact Nat.mod_lt _ (Nat.two_pow_pos _)
  unfold gen_helper_atomic_i32 tcg_gen_callN
  have := Sem.emit .call (NAME.helper.toCtorIdx ::
    ([key, 1, (tl_args T a).length, r] ++ tl_args T a ++ [v] ++ oi)) n (by
      rw [hE]
      intro N hN m m' h
      have e1 := (h.mono hN).addr_val T ha
      have e2 := h.1
      have e3 := h.2 v (by omega)
      simp only [e1, e2, e3]
      refine ⟨rfl, fun i hi => ?_⟩
      simp only [Machine.set_regs]
      split
      · rfl
      · exact h.2 i hi)
  rw [hE] at this
  exact this

/-- The post-store hooks of the atomic lowering (tag invalidation, load-link break) leave
memory and the temporaries of the caller alone; `k` is what follows them. -/
theorem atomic_post_hooks_sem (T : TCGTarget) (addr c idx n : Nat) (k : Gen Unit)
    {F : Machine → Machine} (hk : Sem k n F) :
    Sem (if T.TARGET_MIPS = true ∨ T.TARGET_RISCV = true ∨ T.TARGET_CHERI = true then
        tcg_const_i32 c >>= fun op =>
          if T.TARGET_CHERI = true then
            gen_cheri_invalidate_tags T addr op idx >>= fun _ =>
              if T.TARGET_MIPS = true ∨ T.TARGET_RISCV = true then
                gen_cheri_break_loadlink addr op >>= fun _ => tcg_temp_free_i32 op >>= fun _ => k
              else (pure PUnit.unit : Gen PUnit) >>= fun _ =>
                tcg_temp_free_i32 op >>= fun _ => k
          else (pure PUnit.unit : Gen PUnit) >>= fun _ =>
              if T.TARGET_MIPS = true ∨ T.TARGET_RISCV = true then
                gen_cheri_break_loadlink addr op >>= fun _ => tcg_temp_free_i32 op >>= fun _ => k
              else (pure PUnit.unit : Gen PUnit) >>= fun _ =>
                tcg_temp_free_i32 op >>= fun _ => k
      else (pure PUnit.unit : Gen PUnit) >>= fun _ => k) n F := by
  split
  · refine Sem.const (F := fun _ => F) c hk.1 (fun t ht => ?_) (fun t ht m => ?_)
    · have hin : Sem (if T.TARGET_MIPS = true ∨ T.TARGET_RISCV = true then
            gen_cheri_break_loadlink addr t >>= fun _ => tcg_temp_free_i32 t >>= fun _ => k
          else (pure PUnit.unit : Gen PUnit) >>= fun _ =>
            tcg_temp_free_i32 t >>= fun _ => k) (t + 1) F := by
        split
        · exact Sem.bind_pre (gen_cheri_break_loadlink_sem _ _ _)
            (Sem.bind_pre (Sem.free t (t + 1)) (hk.weaken (by omega)))
        · exact Sem.bind_pre (Sem.pure _) (Sem.bind_pre (Sem.free t (t + 1))
            (hk.weaken (by omega)))
      split
      · exact Sem.bind_pre (gen_cheri_invalidate_tags_sem T addr t idx (t + 1)) hin
      · exact Sem.bind_pre (Sem.pure _) hin
    · exact hk.1 t ht _ _ ⟨rfl, fun i hi => Machine.set_regs_ne _ _ (by omega)⟩
  · exact Sem.bind_pre (Sem.pure _) hk

/-- A dispatch table of `GEN_ATOMIC_HELPER` at the index of a canonical `MemOp`. -/
theorem atomic_table_canonical (T : TCGTarget) (h : Helper) (c : Nat)
    (h8 : c &&& MO_SIZE = MO_8 → c &&& MO_BSWAP = 0)
    (h64 : c &&& MO_SIZE = MO_64 → T.CONFIG_ATOMIC64 = true) :
    atomic_table T h (c &&& (MO_SIZE ||| MO_BSWAP)) = some (h, c &&& (MO_SIZE ||| MO_BSWAP)) := by
  have hsz := and_MO_SIZE c
  have hbs := and_MO_BSWAP c
  rw [and_index]
  have h4 : c % 4 = 0 ∨ c % 4 = 1 ∨ c % 4 = 2 ∨ c % 4 = 3 := by omega
  rcases h4 with e | e | e | e
  · have e' : c &&& MO_SIZE = MO_8 := by rw [hsz, e]; rfl
    rw [h8 e', e']
    simp [atomic_table, MO_8, MO_16, MO_32, MO_BSWAP]
  · have e' : c &&& MO_SIZE = 1 := by rw [hsz, e]
    rw [e']
    rcases hbs with b | b <;> rw [b] <;> simp [atomic_table, MO_8, MO_16, MO_32, MO_BSWAP]
  · have e' : c &&& MO_SIZE = 2 := by rw [hsz, e]
    rw [e']
    rcases hbs with b | b <;> rw [b] <;> simp [atomic_table, MO_8, MO_16, MO_32, MO_BSWAP]
  · have e' : c &&& MO_SIZE = 3 := by rw [hsz, e]
    have ha := h64 (by rw [e']; rfl)
    rw [e']
    rcases hbs with b | b <;> rw [b] <;>
      simp [atomic_table, MO_8, MO_16, MO_32, MO_64, MO_BSWAP, ha]

theorem Machine.set_set (m : Machine) (r x y : Nat) : (m.set r x).set r y = m.set r y := by
  unfold Machine.set
  congr 1
  funext i
  simp only []
  split <;> rfl

/-- The atomic lowering of a read-modify-write family into a 32-bit container: the
routine found in the dispatch table acts on memory, the hooks are neutral, and the value
returned by the routine is sign-extended for a signed `MemOp`. -/
theorem do_atomic_op_i32_sem (T : TCGTarget) (NAME : AtomicName) {r a v n : Nat}
    (idx memop c : Nat) (hA : T.ASSERT_IF_CHERI = true)
    (hc : ∀ s, tcg_canonicalize_memop T memop false false s = (some c, s))
    (hr : r < n) (hv : v < n) (ha : a + T.aw ≤ n) :
    Sem (do_atomic_op_i32 T r a v idx memop (NAME.table T)) n
      (fun m => ({ m with mem := (mem_st m.mem (T.addr_val m a) (c &&& (MO_SIZE ||| MO_BSWAP))
          (NAME.op (8 * 2 ^ (c &&& (MO_SIZE ||| MO_BSWAP) &&& MO_SIZE))
            (mem_ld 32 m.mem (T.addr_val m a) (c &&& (MO_SIZE ||| MO_BSWAP)))
            (m.regs v % 2 ^ (8 * 2 ^ (c &&& (MO_SIZE ||| MO_BSWAP) &&& MO_SIZE))))) } :
          Machine).set r
        (if c &&& MO_SIGN ≠ 0 then
          extend_from 32 (8 * 2 ^ (c &&& MO_SIZE)) true
            (if NAME.NEW = true then
              NAME.op (8 * 2 ^ (c &&& (MO_SIZE ||| MO_BSWAP) &&& MO_SIZE))
                (mem_ld 32 m.mem (T.addr_val m a) (c &&& (MO_SIZE ||| MO_BSWAP)))
                (m.regs v % 2 ^ (8 * 2 ^ (c &&& (MO_SIZE ||| MO_BSWAP) &&& MO_SIZE)))
             else mem_ld 32 m.mem (T.addr_val m a) (c &&& (MO_SIZE ||| MO_BSWAP)))
         else
            (if NAME.NEW = true then
              NAME.op (8 * 2 ^ (c &&& (MO_SIZE ||| MO_BSWAP) &&& MO_SIZE))
                (mem_ld 32 m.mem (T.addr_val m a) (c &&& (MO_SIZE ||| MO_BSWAP)))
                (m.regs v % 2 ^ (8 * 2 ^ (c &&& (MO_SIZE ||| MO_BSWAP) &&& MO_SIZE)))
             else mem_ld 32 m.mem (T.addr_val m a) (c &&& (MO_SIZE ||| MO_BSWAP))))) := by
  obtain ⟨hc8, hc64, _⟩ := canonical_ld_i32_facts T memop c (TCGContext.fresh 0) (hc _)
  have htab := atomic_table_canonical T NAME.helper c hc8 (fun h => absurd h hc64)
  have hks : c &&& (MO_SIZE ||| MO_BSWAP) &&& MO_SIGN = 0 := by
    apply Nat.eq_of_testBit_eq; intro i
    simp only [Nat.testBit_and, Nat.zero_testBit]
    rw [show MO_SIZE ||| MO_BSWAP = 11 from rfl, show MO_SIGN = 2 ^ 2 from rfl,
      Nat.testBit_two_pow]
    by_cases hi : 2 = i
    · subst hi; simp; intro _; decide
    · simp [hi]
  have hkz : c &&& (MO_SIZE ||| MO_BSWAP) &&& MO_SIZE = c &&& MO_SIZE := by
    apply Nat.eq_of_testBit_eq; intro i
    simp only [Nat.testBit_and, Nat.testBit_or]
    cases c.testBit i <;> cases MO_SIZE.testBit i <;> simp
  have hkw : 8 * 2 ^ (c &&& (MO_SIZE ||| MO_BSWAP) &&& MO_SIZE) ≤ 32 := by
    rw [hkz]
    rcases memop_size_cases c with h | h | h | h
    · rw [h]; decide
    · rw [h]; decide
    · rw [h]; decide
    · exact absurd h hc64
  have hext : ∀ N, n ≤ N → Sem (if c &&& MO_SIGN ≠ 0 then tcg_gen_ext_i32 T r r c
      else (pure PUnit.unit : Gen PUnit)) N
      (fun m => if c &&& MO_SIGN ≠ 0 then
        m.set r (extend_from 32 (8 * 2 ^ (c &&& MO_SIZE)) true (m.regs r)) else m) := by
    intro N hN
    split
    · rename_i hs
      refine (tcg_gen_ext_i32_sem T (r := r) (a := r) (n := N) c hc64 (by omega)
        (by omega)).conseq (fun K _ m => ?_)
      simp only [hs, ne_eq, not_false_eq_true, decide_True]
      exact Agree.refl _ _
    · exact Sem.pure N
  have hpost := fun N (hN : n ≤ N) => atomic_post_hooks_sem T a c idx N _ (hext N hN)
  have hcall := fun (oi : List TCGArg) N (hN : n ≤ N) =>
    gen_helper_atomic_i32_sem T NAME (r := r) (a := a) (v := v) (n := N)
      (c &&& (MO_SIZE ||| MO_BSWAP)) 32 oi hks hkw (by omega) (by omega)
  have hfin : ∀ N m, Agree N
      (((fun m => if c &&& MO_SIGN ≠ 0 then
        m.set r (extend_from 32 (8 * 2 ^ (c &&& MO_SIZE)) true (m.regs r)) else m) ∘
        (fun m => ({ m with mem := (mem_st m.mem (T.addr_val m a) (c &&& (MO_SIZE ||| MO_BSWAP))
          (NAME.op (8 * 2 ^ (c &&& (MO_SIZE ||| MO_BSWAP) &&& MO_SIZE))
            (mem_ld 32 m.mem (T.addr_val m a) (c &&& (MO_SIZE ||| MO_BSWAP)))
            (m.regs v % 2 ^ (8 * 2 ^ (c &&& (MO_SIZE ||| MO_BSWAP) &&& MO_SIZE))))) } :
          Machine).set r
        (if NAME.NEW = true then
          NAME.op (8 * 2 ^ (c &&& (MO_SIZE ||| MO_BSWAP) &&& MO_SIZE))
            (mem_ld 32 m.mem (T.addr_val m a) (c &&& (MO_SIZE ||| MO_BSWAP)))
            (m.regs v % 2 ^ (8 * 2 ^ (c &&& (MO_SIZE ||| MO_BSWAP) &&& MO_SIZE)))
         else mem_ld 32 m.mem (T.addr_val m a) (c &&& (MO_SIZE ||| MO_BSWAP))))) m)
      (({ m with mem := (mem_st m.mem (T.addr_val m a) (c &&& (MO_SIZE ||| MO_BSWAP))
          (NAME.op (8 * 2 ^ (c &&& (MO_SIZE ||| MO_BSWAP) &&& MO_SIZE))
            (mem_ld 32 m.mem (T.addr_val m a) (c &&& (MO_SIZE ||| MO_BSWAP)))
            (m.regs v % 2 ^ (8 * 2 ^ (c &&& (MO_SIZE ||| MO_BSWAP) &&& MO_SIZE))))) } :
          Machine).set r
        (if c &&& MO_SIGN ≠ 0 then
          extend_from 32 (8 * 2 ^ (c &&& MO_SIZE)) true
            (if NAME.NEW = true then
              NAME.op (8 * 2 ^ (c &&& (MO_SIZE ||| MO_BSWAP) &&& MO_SIZE))
                (mem_ld 32 m.mem (T.addr_val m a) (c &&& (MO_SIZE ||| MO_BSWAP)))
                (m.regs v % 2 ^ (8 * 2 ^ (c &&& (MO_SIZE ||| MO_BSWAP) &&& MO_SIZE)))
             else mem_ld 32 m.mem (T.addr_val m a) (c &&& (MO_SIZE ||| MO_BSWAP)))
         else
            (if NAME.NEW = true then
              NAME.op (8 * 2 ^ (c &&& (MO_SIZE ||| MO_BSWAP) &&& MO_SIZE))
                (mem_ld 32 m.mem (T.addr_val m a) (c &&& (MO_SIZE ||| MO_BSWAP)))
                (m.regs v % 2 ^ (8 * 2 ^ (c &&& (MO_SIZE ||| MO_BSWAP) &&& MO_SIZE)))
             else mem_ld 32 m.mem (T.addr_val m a) (c &&& (MO_SIZE ||| MO_BSWAP))))) := by
    intro N m
    simp only [Function.comp]
    split
    · rw [Machine.set_regs_self, Machine.set_set]
      exact Agree.refl _ _
    · exact Agree.refl _ _
  unfold do_atomic_op_i32
  refine Sem.assert hA (Sem.bind_val c hc ?_)
  simp only [AtomicName.table, htab]
  split
  · refine (Sem.const (F := fun _ => _) _
        (Local.comp (hcall [] n (le_refl _)).1 (hext n (le_refl _)).1)
        (fun t ht => Sem.bind (hcall [t] (t + 1) (by omega))
          (Sem.bind_pre (Sem.free t (t + 1)) (hpost (t + 1) (by omega))))
      (fun t ht m => Local.comp (hcall [] n (le_refl _)).1 (hext n (le_refl _)).1 t ht _ _
        ⟨rfl, fun i hi => Machine.set_regs_ne _ _ (by omega)⟩)).conseq
      (fun N _ m => hfin N m)
  · exact (Sem.bind (hcall [] n (le_refl _)) (hpost n (le_refl _))).conseq
      (fun N _ m => hfin N m)

/-- The effect of the call op of a read-modify-write routine on 64-bit values. -/
theorem exec_atomic_i64 (T : TCGTarget) (NAME : AtomicName) (key ret addr val : Nat)
    (oi : List TCGArg) (m : Machine) :
    exec_op ⟨.call, NAME.helper.toCtorIdx ::
        ([key, T.w64, (tl_args T addr).length] ++ i64_args T ret ++ tl_args T addr ++
          ([val].map (i64_args T)).flatten ++ oi)⟩ m =
      ({ m with mem := (stn m.mem (T.addr_val m addr) (2 ^ (key &&& MO_SIZE))
          (if key &&& MO_BSWAP ≠ 0 then bswap_size (key &&& MO_SIZE)
              (NAME.op (8 * 2 ^ (key &&& MO_SIZE))
                (if key &&& MO_BSWAP ≠ 0 then bswap_size (key &&& MO_SIZE)
                  (ldn m.mem (T.addr_val m addr) (2 ^ (key &&& MO_SIZE)))
                 else ldn m.mem (T.addr_val m addr) (2 ^ (key &&& MO_SIZE)))
                (m.get64 T val % 2 ^ (8 * 2 ^ (key &&& MO_SIZE))))
           else NAME.op (8 * 2 ^ (key &&& MO_SIZE))
                (if key &&& MO_BSWAP ≠ 0 then bswap_size (key &&& MO_SIZE)
                  (ldn m.mem (T.addr_val m addr) (2 ^ (key &&& MO_SIZE)))
                 else ldn m.mem (T.addr_val m addr) (2 ^ (key &&& MO_SIZE)))
                (m.get64 T val % 2 ^ (8 * 2 ^ (key &&& MO_SIZE))))) } : Machine).set64 T ret
        (if NAME.NEW = true then
          NAME.op (8 * 2 ^ (key &&& MO_SIZE))
            (if key &&& MO_BSWAP ≠ 0 then bswap_size (key &&& MO_SIZE)
              (ldn m.mem (T.addr_val m addr) (2 ^ (key &&& MO_SIZE)))
             else ldn m.mem (T.addr_val m addr) (2 ^ (key &&& MO_SIZE)))
            (m.get64 T val % 2 ^ (8 * 2 ^ (key &&& MO_SIZE)))
         else (if key &&& MO_BSWAP ≠ 0 then bswap_size (key &&& MO_SIZE)
              (ldn m.mem (T.addr_val m addr) (2 ^ (key &&& MO_SIZE)))
             else ldn m.mem (T.addr_val m addr) (2 ^ (key &&& MO_SIZE)))) := by
  have h64 := Nat.pow_le_pow_right (show 0 < 2 by norm_num) (size_bits_le_64 key)
  have hU := mem_ld_raw_lt m.mem (T.addr_val m addr) key
  have hR : (if NAME.NEW = true then
          NAME.op (8 * 2 ^ (key &&& MO_SIZE))
            (if key &&& MO_BSWAP ≠ 0 then bswap_size (key &&& MO_SIZE)
              (ldn m.mem (T.addr_val m addr) (2 ^ (key &&& MO_SIZE)))
             else ldn m.mem (T.addr_val m addr) (2 ^ (key &&& MO_SIZE)))
            (m.get64 T val % 2 ^ (8 * 2 ^ (key &&& MO_SIZE)))
         else (if key &&& MO_BSWAP ≠ 0 then bswap_size (key &&& MO_SIZE)
              (ldn m.mem (T.addr_val m addr) (2 ^ (key &&& MO_SIZE)))
             else ldn m.mem (T.addr_val m addr) (2 ^ (key &&& MO_SIZE)))) < 2 ^ 64 := by
    refine lt_of_lt_of_le ?_ h64
    split
    · exact AtomicName.op_lt NAME _ _ _ hU (Nat.mod_lt _ (Nat.two_pow_pos _))
    · exact hU
  rw [exec_atomic_call]
  cases hT : T.reg64
  · unfold exec_atomic TCGTarget.addr_val Machine.set64 Machine.get64 TCGTarget.w64 i64_args
    by_cases h : T.target_long64 = true
    · have e : tl_args T addr = [TCGV_LOW addr, TCGV_HIGH addr] := by
        unfold tl_args; simp [h, hT]
      simp only [e]
      simp [h, hT, atomic_new_rmw, atomic_returns_new_rmw, TCGV_LOW, TCGV_HIGH]
    · have e : tl_args T addr = [addr] := by
        unfold tl_args; simp [h]
      simp only [e]
      simp [h, hT, atomic_new_rmw, atomic_returns_new_rmw, TCGV_LOW, TCGV_HIGH]
  · rw [Machine.set64_of_reg64 hT, Nat.mod_eq_of_lt hR]
    unfold exec_atomic TCGTarget.addr_val Machine.get64 TCGTarget.w64 i64_args
    have e : tl_args T addr = [addr] := by
      unfold tl_args; simp [hT]
    simp only [e]
    simp [hT, atomic_new_rmw, atomic_returns_new_rmw]

/-- The call of a read-modify-write routine on 64-bit values. -/
theorem gen_helper_atomic_i64_sem (T : TCGTarget) (NAME : AtomicName) {r a v n : Nat}
    (key : Nat) (oi : List TCGArg) (hk : key &&& MO_SIGN = 0)
    (hv : v + T.w64 ≤ n) (ha : a + T.aw ≤ n) :
    Sem (gen_helper_atomic_i64 T (NAME.helper, key) r a [v] oi) n
      (fun m => ({ m with mem := (mem_st m.mem (T.addr_val m a) key
          (NAME.op (8 * 2 ^ (key &&& MO_SIZE)) (mem_ld 64 m.mem (T.addr_val m a) key)
            (m.get64 T v % 2 ^ (8 * 2 ^ (key &&& MO_SIZE))))) } : Machine).set64 T r
        (if NAME.NEW = true then
          NAME.op (8 * 2 ^ (key &&& MO_SIZE)) (mem_ld 64 m.mem (T.addr_val m a) key)
            (m.get64 T v % 2 ^ (8 * 2 ^ (key &&& MO_SIZE)))
         else mem_ld 64 m.mem (T.addr_val m a) key)) := by
  have h64 := size_bits_le_64 key
  have hE : exec_op ⟨.call, NAME.helper.toCtorIdx ::
        ([key, T.w64, (tl_args T a).length] ++ i64_args T r ++ tl_args T a ++
          ([v].map (i64_args T)).flatten ++ oi)⟩ =
      (fun m => ({ m with mem := (mem_st m.mem (T.addr_val m a) key
          (NAME.op (8 * 2 ^ (key &&& MO_SIZE)) (mem_ld 64 m.mem (T.addr_val m a) key)
            (m.get64 T v % 2 ^ (8 * 2 ^ (key &&& MO_SIZE))))) } : Machine).set64 T r
        (if NAME.NEW = true then
          NAME.op (8 * 2 ^ (key &&& MO_SIZE)) (mem_ld 64 m.mem (T.addr_val m a) key)
            (m.get64 T v % 2 ^ (8 * 2 ^ (key &&& MO_SIZE)))
         else mem_ld 64 m.mem (T.addr_val m a) key)) := by
    funext m
    rw [exec_atomic_i64, mem_ld_raw 64 m.mem (T.addr_val m a) key h64 hk]
    rw [mem_st_raw]
    refine AtomicName.op_lt NAME _ _ _ ?_ (Nat.mod_lt _ (Nat.two_pow_pos _))
    rw [← mem_ld_raw 64 m.mem (T.addr_val m a) key h64 hk]
    exact mem_ld_raw_lt _ _ _
  unfold gen_helper_atomic_i64 tcg_gen_callN
  have := Sem.emit .call (NAME.helper.toCtorIdx ::
    ([key, T.w64, (tl_args T a).length] ++ i64_args T r ++ tl_args T a ++
          ([v].map (i64_args T)).flatten ++ oi)) n (by
      rw [hE]
      intro N hN m m' h
      have e1 := (h.mono hN).addr_val T ha
      have e2 := h.1
      have e3 := (h.mono hN).get64 T hv
      simp only [e1, e2, e3]
      exact Agree.of_set64 T rfl rfl (fun i hi _ => h.2 i hi))
  rw [hE] at this
  exact this

/-- The post-store hooks that close the atomic lowering of a 64-bit container. -/
theorem atomic_post_hooks_end_sem (T : TCGTarget) (addr c idx n : Nat) :
    Sem (if T.TARGET_MIPS = true ∨ T.TARGET_RISCV = true ∨ T.TARGET_CHERI = true then
        tcg_const_i32 c >>= fun op =>
          if T.TARGET_CHERI = true then
            gen_cheri_invalidate_tags T addr op idx >>= fun _ =>
              if T.TARGET_MIPS = true ∨ T.TARGET_RISCV = true then
                gen_cheri_break_loadlink addr op >>= fun _ => tcg_temp_free_i32 op
              else (pure PUnit.unit : Gen PUnit) >>= fun _ => tcg_temp_free_i32 op
          else (pure PUnit.unit : Gen PUnit) >>= fun _ =>
              if T.TARGET_MIPS = true ∨ T.TARGET_RISCV = true then
                gen_cheri_break_loadlink addr op >>= fun _ => tcg_temp_free_i32 op
              else (pure PUnit.unit : Gen PUnit) >>= fun _ => tcg_temp_free_i32 op
      else (pure PUnit.unit : Gen PUnit)) n id := by
  split
  · refine Sem.const_id c (fun t ht => ?_)
    have hin : Sem (if T.TARGET_MIPS = true ∨ T.TARGET_RISCV = true then
          gen_cheri_break_loadlink addr t >>= fun _ => tcg_temp_free_i32 t
        else (pure PUnit.unit : Gen PUnit) >>= fun _ => tcg_temp_free_i32 t) (t + 1) id := by
      split
      · exact Sem.bind_id (gen_cheri_break_loadlink_sem _ _ _) (Sem.free t (t + 1))
      · exact Sem.bind_id (Sem.pure _) (Sem.free t (t + 1))
    split
    · exact Sem.bind_id (gen_cheri_invalidate_tags_sem T addr t idx (t + 1)) hin
    · exact Sem.bind_id (Sem.pure _) hin
  · exact Sem.pure n

/-- The atomic lowering of a read-modify-write family at 64 bits, where the host has
64-bit atomics: the routine found in the dispatch table acts on memory and returns the
prior or the new value. -/
theorem do_atomic_op_i64_sem_wide (T : TCGTarget) (NAME : AtomicName) {r a v n : Nat}
    (idx memop c : Nat) (hA : T.ASSERT_IF_CHERI = true) (h64 : T.CONFIG_ATOMIC64 = true)
    (hc : ∀ s, tcg_canonicalize_memop T memop true false s = (some c, s))
    (hsz : c &&& MO_SIZE = MO_64)
    (hr : r + T.w64 ≤ n) (hv : v + T.w64 ≤ n) (ha : a + T.aw ≤ n) :
    Sem (do_atomic_op_i64 T r a v idx memop (NAME.table T)) n
      (fun m => ({ m with mem := (mem_st m.mem (T.addr_val m a) (c &&& (MO_SIZE ||| MO_BSWAP))
          (NAME.op (8 * 2 ^ (c &&& (MO_SIZE ||| MO_BSWAP) &&& MO_SIZE))
            (mem_ld 64 m.mem (T.addr_val m a) (c &&& (MO_SIZE ||| MO_BSWAP)))
            (m.get64 T v % 2 ^ (8 * 2 ^ (c &&& (MO_SIZE ||| MO_BSWAP) &&& MO_SIZE))))) } :
          Machine).set64 T r
        (if NAME.NEW = true then
          NAME.op (8 * 2 ^ (c &&& (MO_SIZE ||| MO_BSWAP) &&& MO_SIZE))
            (mem_ld 64 m.mem (T.addr_val m a) (c &&& (MO_SIZE ||| MO_BSWAP)))
            (m.get64 T v % 2 ^ (8 * 2 ^ (c &&& (MO_SIZE ||| MO_BSWAP) &&& MO_SIZE)))
         else mem_ld 64 m.mem (T.addr_val m a) (c &&& (MO_SIZE ||| MO_BSWAP)))) := by
  have hw1 := w64_pos T
  have htab := atomic_table_canonical T NAME.helper c
    (fun h => absurd (hsz.symm.trans h) (by decide)) (fun _ => h64)
  have hks : c &&& (MO_SIZE ||| MO_BSWAP) &&& MO_SIGN = 0 := by
    apply Nat.eq_of_testBit_eq; intro i
    simp only [Nat.testBit_and, Nat.zero_testBit]
    rw [show MO_SIZE ||| MO_BSWAP = 11 from rfl, show MO_SIGN = 2 ^ 2 from rfl,
      Nat.testBit_two_pow]
    by_cases hi : 2 = i
    · subst hi; simp; intro _; decide
    · simp [hi]
  have hpost := fun N => atomic_post_hooks_end_sem T a c idx N
  have hcall := fun (oi : List TCGArg) N (hN : n ≤ N) =>
    gen_helper_atomic_i64_sem T NAME (r := r) (a := a) (v := v) (n := N)
      (c &&& (MO_SIZE ||| MO_BSWAP)) oi hks (by omega) (by omega)
  unfold do_atomic_op_i64
  refine Sem.assert hA (Sem.bind_val c hc ?_)
  simp only [AtomicName.table, htab, hsz, h64, if_true]
  split
  · refine Sem.const (F := fun _ => _) _ (hcall [] n (le_refl _)).1
        (fun t ht => Sem.bind_post (hcall [t] (t + 1) (by omega))
          (Sem.bind_id (Sem.free t (t + 1)) (hpost (t + 1))))
      (fun t ht m => (hcall [] n (le_refl _)).1 t ht _ _
        ⟨rfl, fun i hi => Machine.set_regs_ne _ _ (by omega)⟩)
  · exact Sem.bind_post (hcall [] n (le_refl _)) (hpost n)

theorem addr_val_set_ge (T : TCGTarget) (m : Machine) {x a : Nat} (y : Nat)
    (h : a + T.aw ≤ x) : T.addr_val (m.set x y) a = T.addr_val m a :=
  (show Agree x (m.set x y) m from
    ⟨rfl, fun i hi => Machine.set_regs_ne _ _ (by omega)⟩).addr_val T h

theorem Machine.set64_set64 (T : TCGTarget) (m : Machine) (r x y : Nat) :
    (m.set64 T r x).set64 T r y = m.set64 T r y := by
  unfold Machine.set64 Machine.setPair
  split
  · exact Machine.set_set _ _ _ _
  · unfold Machine.set
    congr 1
    funext i
    simp only []
    split_ifs <;> rfl

/-- The atomic lowering of a read-modify-write family into a 64-bit container below 64
bits: the operand is narrowed, the 32-bit lowering runs under the unsigned `MemOp`, and
its result is widened, with sign for a signed `MemOp`. -/
theorem do_atomic_op_i64_sem_narrow (T : TCGTarget) (NAME : AtomicName) {r a v n : Nat}
    (idx memop c d : Nat) (hA : T.ASSERT_IF_CHERI = true)
    (hc : ∀ s, tcg_canonicalize_memop T memop true false s = (some c, s))
    (hd : ∀ s, tcg_canonicalize_memop T (c &&& bnot 32 MO_SIGN) false false s = (some d, s))
    (hsz : c &&& MO_SIZE ≠ MO_64) (hds : d &&& MO_SIGN = 0)
    (hr : r + T.w64 ≤ n) (hv : v + T.w64 ≤ n) (ha : a + T.aw ≤ n) :
    Sem (do_atomic_op_i64 T r a v idx memop (NAME.table T)) n
      (fun m => ({ m with mem := (mem_st m.mem (T.addr_val m a) (d &&& (MO_SIZE ||| MO_BSWAP))
          (NAME.op (8 * 2 ^ (d &&& (MO_SIZE ||| MO_BSWAP) &&& MO_SIZE))
            (mem_ld 32 m.mem (T.addr_val m a) (d &&& (MO_SIZE ||| MO_BSWAP)))
            (m.get64 T v % 2 ^ 32 % 2 ^ (8 * 2 ^ (d &&& (MO_SIZE ||| MO_BSWAP) &&& MO_SIZE))))) } : Machine).set64 T r
        (if c &&& MO_SIGN ≠ 0 then
          extend_from 64 (8 * 2 ^ (c &&& MO_SIZE)) true
            ((if NAME.NEW = true then
            NAME.op (8 * 2 ^ (d &&& (MO_SIZE ||| MO_BSWAP) &&& MO_SIZE))
              (mem_ld 32 m.mem (T.addr_val m a) (d &&& (MO_SIZE ||| MO_BSWAP)))
              (m.get64 T v % 2 ^ 32 % 2 ^ (8 * 2 ^ (d &&& (MO_SIZE ||| MO_BSWAP) &&& MO_SIZE)))
           else mem_ld 32 m.mem (T.addr_val m a) (d &&& (MO_SIZE ||| MO_BSWAP))) % 2 ^ 32 % 2 ^ 64)
         else (if NAME.NEW = true then
            NAME.op (8 * 2 ^ (d &&& (MO_SIZE ||| MO_BSWAP) &&& MO_SIZE))
              (mem_ld 32 m.mem (T.addr_val m a) (d &&& (MO_SIZE ||| MO_BSWAP)))
              (m.get64 T v % 2 ^ 32 % 2 ^ (8 * 2 ^ (d &&& (MO_SIZE ||| MO_BSWAP) &&& MO_SIZE)))
           else mem_ld 32 m.mem (T.addr_val m a) (d &&& (MO_SIZE ||| MO_BSWAP))) % 2 ^ 32)) := by
  have hw1 := w64_pos T
  have haw := aw_pos T
  have hL : Local n (fun m => ({ m with mem := (mem_st m.mem (T.addr_val m a) (d &&& (MO_SIZE ||| MO_BSWAP))
          (NAME.op (8 * 2 ^ (d &&& (MO_SIZE ||| MO_BSWAP) &&& MO_SIZE))
            (mem_ld 32 m.mem (T.addr_val m a) (d &&& (MO_SIZE ||| MO_BSWAP)))
            (m.get64 T v % 2 ^ 32 % 2 ^ (8 * 2 ^ (d &&& (MO_SIZE ||| MO_BSWAP) &&& MO_SIZE))))) } : Machine).set64 T r
        (if c &&& MO_SIGN ≠ 0 then
          extend_from 64 (8 * 2 ^ (c &&& MO_SIZE)) true
            ((if NAME.NEW = true then
            NAME.op (8 * 2 ^ (d &&& (MO_SIZE ||| MO_BSWAP) &&& MO_SIZE))
              (mem_ld 32 m.mem (T.addr_val m a) (d &&& (MO_SIZE ||| MO_BSWAP)))
              (m.get64 T v % 2 ^ 32 % 2 ^ (8 * 2 ^ (d &&& (MO_SIZE ||| MO_BSWAP) &&& MO_SIZE)))
           else mem_ld 32 m.mem (T.addr_val m a) (d &&& (MO_SIZE ||| MO_BSWAP))) % 2 ^ 32 % 2 ^ 64)
         else (if NAME.NEW = true then
            NAME.op (8 * 2 ^ (d &&& (MO_SIZE ||| MO_BSWAP) &&& MO_SIZE))
              (mem_ld 32 m.mem (T.addr_val m a) (d &&& (MO_SIZE ||| MO_BSWAP)))
              (m.get64 T v % 2 ^ 32 % 2 ^ (8 * 2 ^ (d &&& (MO_SIZE ||| MO_BSWAP) &&& MO_SIZE)))
           else mem_ld 32 m.mem (T.addr_val m a) (d &&& (MO_SIZE ||| MO_BSWAP))) % 2 ^ 32)) := by
    intro N hN m m' h
    have e1 := (h.mono hN).addr_val T ha
    have e2 := h.1
    have e3 := (h.mono hN).get64 T hv
    simp only [e1, e2, e3]
    exact Agree.of_set64 T rfl rfl (fun i hi _ => h.2 i hi)
  have hpost := fun N => atomic_post_hooks_end_sem T a c idx N
  unfold do_atomic_op_i64
  refine Sem.assert hA (Sem.bind_val c hc ?_)
  simp only [hsz, if_false]
  refine Sem.new2 (F := (fun t m => ((⟨(m.set t (m.get64 T v % 2 ^ 32)).regs, (mem_st m.mem (T.addr_val m a) (d &&& (MO_SIZE ||| MO_BSWAP))
          (NAME.op (8 * 2 ^ (d &&& (MO_SIZE ||| MO_BSWAP) &&& MO_SIZE))
            (mem_ld 32 m.mem (T.addr_val m a) (d &&& (MO_SIZE ||| MO_BSWAP)))
            (m.get64 T v % 2 ^ 32 % 2 ^ (8 * 2 ^ (d &&& (MO_SIZE ||| MO_BSWAP) &&& MO_SIZE)))))⟩ : Machine).set (t + 1)
        (if NAME.NEW = true then
            NAME.op (8 * 2 ^ (d &&& (MO_SIZE ||| MO_BSWAP) &&& MO_SIZE))
              (mem_ld 32 m.mem (T.addr_val m a) (d &&& (MO_SIZE ||| MO_BSWAP)))
              (m.get64 T v % 2 ^ 32 % 2 ^ (8 * 2 ^ (d &&& (MO_SIZE ||| MO_BSWAP) &&& MO_SIZE)))
           else mem_ld 32 m.mem (T.addr_val m a) (d &&& (MO_SIZE ||| MO_BSWAP)))).set64 T r
        (if c &&& MO_SIGN ≠ 0 then
          extend_from 64 (8 * 2 ^ (c &&& MO_SIZE)) true
            ((if NAME.NEW = true then
            NAME.op (8 * 2 ^ (d &&& (MO_SIZE ||| MO_BSWAP) &&& MO_SIZE))
              (mem_ld 32 m.mem (T.addr_val m a) (d &&& (MO_SIZE ||| MO_BSWAP)))
              (m.get64 T v % 2 ^ 32 % 2 ^ (8 * 2 ^ (d &&& (MO_SIZE ||| MO_BSWAP) &&& MO_SIZE)))
           else mem_ld 32 m.mem (T.addr_val m a) (d &&& (MO_SIZE ||| MO_BSWAP))) % 2 ^ 32 % 2 ^ 64)
         else (if NAME.NEW = true then
            NAME.op (8 * 2 ^ (d &&& (MO_SIZE ||| MO_BSWAP) &&& MO_SIZE))
              (mem_ld 32 m.mem (T.addr_val m a) (d &&& (MO_SIZE ||| MO_BSWAP)))
              (m.get64 T v % 2 ^ 32 % 2 ^ (8 * 2 ^ (d &&& (MO_SIZE ||| MO_BSWAP) &&& MO_SIZE)))
           else mem_ld 32 m.mem (T.addr_val m a) (d &&& (MO_SIZE ||| MO_BSWAP))) % 2 ^ 32))) hL (fun t ht => ?body) (fun t ht m => ?agree)
  case agree =>
    refine Agree.of_set64 T rfl rfl (fun i hi _ => ?_)
    show ((m.set t _).set (t + 1) _).regs i = m.regs i
    rw [Machine.set_regs_ne _ _ (by omega), Machine.set_regs_ne _ _ (by omega)]
  case body =>
    have hext : Sem (if c &&& MO_SIGN ≠ 0 then
          tcg_gen_ext_i64 T r r c >>= fun _ =>
            (if T.TARGET_MIPS = true ∨ T.TARGET_RISCV = true ∨ T.TARGET_CHERI = true then
              tcg_const_i32 c >>= fun op =>
                if T.TARGET_CHERI = true then
                  gen_cheri_invalidate_tags T a op idx >>= fun _ =>
                    if T.TARGET_MIPS = true ∨ T.TARGET_RISCV = true then
                      gen_cheri_break_loadlink a op >>= fun _ => tcg_temp_free_i32 op
                    else (pure PUnit.unit : Gen PUnit) >>= fun _ => tcg_temp_free_i32 op
                else (pure PUnit.unit : Gen PUnit) >>= fun _ =>
                    if T.TARGET_MIPS = true ∨ T.TARGET_RISCV = true then
                      gen_cheri_break_loadlink a op >>= fun _ => tcg_temp_free_i32 op
                    else (pure PUnit.unit : Gen PUnit) >>= fun _ => tcg_temp_free_i32 op
            else (pure PUnit.unit : Gen PUnit))
        else (pure PUnit.unit : Gen PUnit) >>= fun _ =>
            (if T.TARGET_MIPS = true ∨ T.TARGET_RISCV = true ∨ T.TARGET_CHERI = true then
              tcg_const_i32 c >>= fun op =>
                if T.TARGET_CHERI = true then
                  gen_cheri_invalidate_tags T a op idx >>= fun _ =>
                    if T.TARGET_MIPS = true ∨ T.TARGET_RISCV = true then
                      gen_cheri_break_loadlink a op >>= fun _ => tcg_temp_free_i32 op
                    else (pure PUnit.unit : Gen PUnit) >>= fun _ => tcg_temp_free_i32 op
                else (pure PUnit.unit : Gen PUnit) >>= fun _ =>
                    if T.TARGET_MIPS = true ∨ T.TARGET_RISCV = true then
                      gen_cheri_break_loadlink a op >>= fun _ => tcg_temp_free_i32 op
                    else (pure PUnit.unit : Gen PUnit) >>= fun _ => tcg_temp_free_i32 op
            else (pure PUnit.unit : Gen PUnit))) (t + 2)
        (fun m => if c &&& MO_SIGN ≠ 0 then
          m.set64 T r (extend_from 64 (8 * 2 ^ (c &&& MO_SIZE)) true (m.get64 T r)) else m) := by
      split
      · rename_i hs
        refine (Sem.bind_post (tcg_gen_ext_i64_sem T (r := r) (a := r) (n := t + 2) c
          (by omega) (by omega) (Or.inl rfl)) (hpost (t + 2))).conseq (fun K _ m => ?_)
        simp only [hs, ne_eq, not_false_eq_true, decide_True]
        exact Agree.refl _ _
      · exact Sem.bind_pre (Sem.pure _) (hpost (t + 2))
    refine (Sem.bind (tcg_gen_extrl_i64_i32_sem T (r := t) (a := v) (n := t + 2) (by omega))
      (Sem.bind (do_atomic_op_i32_sem T NAME (r := t + 1) (a := a) (v := t) (n := t + 2)
        idx (c &&& bnot 32 MO_SIGN) d hA hd (by omega) (by omega) (by omega))
      (Sem.bind (Sem.free t (t + 2))
      (Sem.bind (tcg_gen_extu_i32_i64_sem T (r := r) (a := t + 1) (n := t + 2) (by omega))
      (Sem.bind (Sem.free (t + 1) (t + 2)) hext))))).conseq (fun N hN m => ?_)
    by_cases hs : c &&& MO_SIGN = 0
    · simp (disch := omega) only [Function.comp, id, Machine.set_regs_self,
        Machine.set_regs_ne, Machine.set_mem, Machine.get64_set64_self, Machine.get64_set_ne,
        hds, hs, ne_eq, not_true_eq_false, if_false, addr_val_set_ge, Machine.set64_set64]
      exact Agree.refl _ _
    · simp (disch := omega) only [Function.comp, id, Machine.set_regs_self,
        Machine.set_regs_ne, Machine.set_mem, Machine.get64_set64_self, Machine.get64_set_ne,
        hds, hs, ne_eq, not_true_eq_false, not_false_eq_true, if_true, if_false,
        addr_val_set_ge, Machine.set64_set64]
      exact Agree.refl _ _

theorem testBit_pred_iff (l x : Nat) (h0 : 0 < l) :
    x.testBit (l - 1) = decide (2 ^ (l - 1) ≤ x % 2 ^ l) := by
  obtain ⟨i, rfl⟩ : ∃ i, l = i + 1 := ⟨l - 1, by omega⟩
  rw [Nat.add_sub_cancel, Nat.testBit_to_div_mod, Nat.mod_pow_succ]
  have h1 : x % 2 ^ i < 2 ^ i := Nat.mod_lt _ (Nat.two_pow_pos _)
  have h2 : x / 2 ^ i % 2 = 0 ∨ x / 2 ^ i % 2 = 1 := by omega
  rcases h2 with e | e
  · rw [e]; simp; omega
  · rw [e]; simp

theorem sext_eq_add (w l x : Nat) (h0 : 0 < l) (hl : l ≤ w) :
    sext w l x = x % 2 ^ l + (if 2 ^ (l - 1) ≤ x % 2 ^ l then 2 ^ w - 2 ^ l else 0) := by
  unfold sext
  rw [testBit_pred_iff l x h0]
  by_cases h : 2 ^ (l - 1) ≤ x % 2 ^ l
  · simp only [h, decide_True, if_true]
    have hx : x % 2 ^ l < 2 ^ l := Nat.mod_lt _ (Nat.two_pow_pos _)
    have hp : 2 ^ l * (2 ^ (w - l) - 1) = 2 ^ w - 2 ^ l := by
      rw [Nat.mul_sub, Nat.mul_one, ← Nat.pow_add, Nat.add_sub_cancel' hl]
    have hle : 2 ^ l ≤ 2 ^ w := Nat.pow_le_pow_right (by norm_num) hl
    rw [Nat.lor_comm, Nat.shiftLeft_eq, Nat.mul_comm, ← Nat.mul_add_lt_is_or hx, hp]
    omega
  · simp only [h, decide_False, Bool.false_eq_true, if_false, Nat.or_zero, Nat.add_zero]

/-- The signed value of a sign-extended field is the signed value of the field. -/
theorem toInt_sext (w l x : Nat) (h0 : 0 < l) (hl : l ≤ w) :
    toInt w (sext w l x) = toInt l x := by
  have hlt := sext_lt w l x hl
  have hx : x % 2 ^ l < 2 ^ l := Nat.mod_lt _ (Nat.two_pow_pos _)
  have e1 : 2 ^ l = 2 * 2 ^ (l - 1) := by
    rw [← Nat.pow_succ']; congr 1; omega
  have e2 : 2 ^ w = 2 * 2 ^ (w - 1) := by
    rw [← Nat.pow_succ']; congr 1; omega
  have e3 : 2 ^ (l - 1) ≤ 2 ^ (w - 1) := Nat.pow_le_pow_right (by norm_num) (by omega)
  have c1 : ((2 : Int) ^ w) = ((2 ^ w : Nat) : Int) := by push_cast; rfl
  have c2 : ((2 : Int) ^ l) = ((2 ^ l : Nat) : Int) := by push_cast; rfl
  unfold toInt
  rw [Nat.mod_eq_of_lt hlt, c1, c2]
  rw [sext_eq_add w l x h0 hl] at hlt ⊢
  generalize 2 ^ (l - 1) = A at *
  generalize 2 ^ (w - 1) = B at *
  generalize x % 2 ^ l = y at *
  generalize 2 ^ l = L at *
  generalize 2 ^ w = W at *
  subst e1 e2
  by_cases h : A ≤ y
  · rw [if_pos h] at hlt ⊢
    rw [if_neg (by omega), if_neg (by omega)]
    omega
  · rw [if_neg h] at hlt ⊢
    rw [if_pos (by omega), if_pos (by omega)]
    omega

theorem and_mod_two_pow (a b l : Nat) : (a &&& b) % 2 ^ l = (a % 2 ^ l) &&& (b % 2 ^ l) := by
  apply Nat.eq_of_testBit_eq; intro i
  simp only [Nat.testBit_mod_two_pow, Nat.testBit_and]
  cases decide (i < l) <;> simp

theorem or_mod_two_pow (a b l : Nat) : (a ||| b) % 2 ^ l = (a % 2 ^ l) ||| (b % 2 ^ l) := by
  apply Nat.eq_of_testBit_eq; intro i
  simp only [Nat.testBit_mod_two_pow, Nat.testBit_or]
  cases decide (i < l) <;> simp

theorem xor_mod_two_pow (a b l : Nat) : (a ^^^ b) % 2 ^ l = (a % 2 ^ l) ^^^ (b % 2 ^ l) := by
  apply Nat.eq_of_testBit_eq; intro i
  simp only [Nat.testBit_mod_two_pow, Nat.testBit_xor]
  cases decide (i < l) <;> simp

/-- The operation of a family on the extended operands, truncated to the access size, is
the operation at the access size on the field values. -/
theorem AtomicName.op_extend (NAME : AtomicName) (w l memop old val : Nat) (h0 : 0 < l)
    (hl : l ≤ w) (hold : old < 2 ^ l) :
    NAME.op w (extend_from w l (NAME.SIGNED.extends_signed memop) old)
        (extend_from w l (NAME.SIGNED.extends_signed memop) val) % 2 ^ l =
      NAME.op l old (val % 2 ^ l) := by
  have hE : ∀ b x, extend_from w l b x % 2 ^ l = x % 2 ^ l := fun b x =>
    extend_from_mod_len w l b x
  have ho : old % 2 ^ l = old := Nat.mod_eq_of_lt hold
  have hadd : ∀ b, (extend_from w l b old + extend_from w l b val) % 2 ^ w % 2 ^ l =
      (old + val % 2 ^ l) % 2 ^ l := fun b => by
    rw [Nat.mod_mod_of_dvd _ (Nat.pow_dvd_pow 2 hl), Nat.add_mod, hE, hE, ho,
      Nat.add_mod old (val % 2 ^ l), ho, Nat.mod_mod]
  have hand : ∀ b, (extend_from w l b old &&& extend_from w l b val) % 2 ^ l =
      old &&& val % 2 ^ l := fun b => by rw [and_mod_two_pow, hE, hE, ho]
  have hor : ∀ b, (extend_from w l b old ||| extend_from w l b val) % 2 ^ l =
      old ||| val % 2 ^ l := fun b => by rw [or_mod_two_pow, hE, hE, ho]
  have hxor : ∀ b, (extend_from w l b old ^^^ extend_from w l b val) % 2 ^ l =
      old ^^^ val % 2 ^ l := fun b => by rw [xor_mod_two_pow, hE, hE, ho]
  have hS : ∀ x, toInt w (extend_from w l true x) = toInt l x := fun x =>
    toInt_sext w l x h0 hl
  have hU : ∀ x, extend_from w l false x = x % 2 ^ l := fun x => rfl
  have hsmin : (if toInt w (extend_from w l true old) < toInt w (extend_from w l true val)
      then extend_from w l true old else extend_from w l true val) % 2 ^ l =
      (if toInt l old < toInt l (val % 2 ^ l) then old else val % 2 ^ l) := by
    rw [hS, hS, toInt_mod]
    split
    · rw [hE, ho]
    · rw [hE]
  have hsmax : (if toInt w (extend_from w l true old) < toInt w (extend_from w l true val)
      then extend_from w l true val else extend_from w l true old) % 2 ^ l =
      (if toInt l old < toInt l (val % 2 ^ l) then val % 2 ^ l else old) := by
    rw [hS, hS, toInt_mod]
    split
    · rw [hE]
    · rw [hE, ho]
  have humin : (if extend_from w l false old < extend_from w l false val
      then extend_from w l false old else extend_from w l false val) % 2 ^ l =
      (if old < val % 2 ^ l then old else val % 2 ^ l) := by
    rw [hU, hU, ho]
    split
    · exact ho
    · exact Nat.mod_mod _ _
  have humax : (if extend_from w l false old < extend_from w l false val
      then extend_from w l false val else extend_from w l false old) % 2 ^ l =
      (if old < val % 2 ^ l then val % 2 ^ l else old) := by
    rw [hU, hU, ho]
    split
    · exact Nat.mod_mod _ _
    · exact ho
  cases NAME
  case fetch_add => exact hadd _
  case add_fetch => exact hadd _
  case fetch_and => exact hand _
  case and_fetch => exact hand _
  case fetch_or => exact hor _
  case or_fetch => exact hor _
  case fetch_xor => exact hxor _
  case xor_fetch => exact hxor _
  case fetch_smin => exact hsmin
  case smin_fetch => exact hsmin
  case fetch_smax => exact hsmax
  case smax_fetch => exact hsmax
  case fetch_umin => exact humin
  case umin_fetch => exact humin
  case fetch_umax => exact humax
  case umax_fetch => exact humax
  case xchg => exact hE _ _

/-- The sequential read-modify-write lowering into a 32-bit container: what the emitted
ops leave in memory and in `ret`. -/
theorem rmw_seq_i32 (T : TCGTarget) (NAME : AtomicName) (s : TCGContext)
    (m : Machine) (ret addr val idx memop : Nat)
    (hseq : s.tb_cflags &&& CF_PARALLEL = 0) (hidx : idx < 16)
    (hal : ∀ x, x &&& MO_AMASK = memop &&& MO_AMASK → x &&& MO_SIZE = memop &&& MO_SIZE →
      T.alignment_valid x = true)
    (ha : addr + T.aw ≤ s.nb_temps) :
    memop &&& MO_SIZE ≠ MO_64 → ret < s.nb_temps → val < s.nb_temps →
      ∃ δ, emitted (tcg_gen_atomic_NAME_i32 T NAME ret addr val idx memop) s = some δ ∧
        (run δ m).mem = mem_st m.mem (T.ea m addr) memop
          (NAME.op 32
            (extend_from 32 (8 * 2 ^ (memop &&& MO_SIZE)) (NAME.SIGNED.extends_signed memop)
              (mem_ld 32 m.mem (T.ea m addr) (memop &&& bnot 32 MO_SIGN)))
            (extend_from 32 (8 * 2 ^ (memop &&& MO_SIZE)) (NAME.SIGNED.extends_signed memop)
              (m.regs val))) ∧
        mem_ld 32 (run δ m).mem (T.ea m addr) (memop &&& bnot 32 MO_SIGN) =
          (NAME.op 32
            (extend_from 32 (8 * 2 ^ (memop &&& MO_SIZE)) (NAME.SIGNED.extends_signed memop)
              (mem_ld 32 m.mem (T.ea m addr) (memop &&& bnot 32 MO_SIGN)))
            (extend_from 32 (8 * 2 ^ (memop &&& MO_SIZE)) (NAME.SIGNED.extends_signed memop)
              (m.regs val))) % 2 ^ (8 * 2 ^ (memop &&& MO_SIZE)) ∧
        (run δ m).regs ret =
          extend_from 32 (8 * 2 ^ (memop &&& MO_SIZE)) (decide (memop &&& MO_SIGN ≠ 0))
            (if NAME.NEW = true then
              NAME.op 32
                (extend_from 32 (8 * 2 ^ (memop &&& MO_SIZE))
                  (NAME.SIGNED.extends_signed memop)
                  (mem_ld 32 m.mem (T.ea m addr) (memop &&& bnot 32 MO_SIGN)))
                (extend_from 32 (8 * 2 ^ (memop &&& MO_SIZE))
                  (NAME.SIGNED.extends_signed memop) (m.regs val))
             else mem_ld 32 m.mem (T.ea m addr) (memop &&& bnot 32 MO_SIGN)) := by
  intro h64 hr hv
  obtain ⟨c, d, e, hc, hd, he, hpos, hle, kl, ks, kt, kc⟩ :=
    rmw_fields T memop false NAME.SIGNED hal (fun _ => h64)
  simp only [Bool.false_eq_true, if_false] at hle kl kt kc
  have hE : tcg_gen_atomic_NAME_i32 T NAME ret addr val idx memop s =
      do_nonatomic_op_i32 T ret addr val idx memop NAME.NEW (NAME.OP_i32 T) NAME.SIGNED s := by
    unfold tcg_gen_atomic_NAME_i32
    simp only [Gen.bind_apply, tb_cflags, Gen.andThen_some, hseq, ne_eq, not_true_eq_false,
      if_false]
  obtain ⟨δ, hδ, R⟩ := (do_nonatomic_op_i32_sem T (r := ret) (a := addr) (v := val)
    (n := s.nb_temps) idx memop c d e NAME.NEW (NAME.OP_i32 T) NAME.SIGNED (NAME.op 32) hidx
    hc hd he (fun t ht => NAME.OP_i32_sem T (by omega) (by omega) (by omega)) hr hv
    ha).emitted s (le_refl _)
  have hmem := (R m).1
  have hret := (R m).2 ret hr
  simp only [Machine.set_regs_self, Machine.set_mem, kl, ks, kt, kc,
    Nat.mod_eq_of_lt (extend_from_lt 32 _ _ _ hle)] at hmem hret
  refine ⟨δ, ?_, hmem, ?_, ?_⟩
  · unfold emitted at hδ ⊢
    rw [hE]
    exact hδ
  · rw [hmem]
    exact mem_ld_mem_st 32 _ _ _ _ hle
  · rw [hret]
    cases NAME.NEW
    · simp only [Bool.false_eq_true, if_false]
      exact extend_from_twice _ _ _ _ _ hpos
    · simp only [if_true]

/-- The sequential read-modify-write lowering into a 64-bit container: what the emitted
ops leave in memory and in `ret`. -/
theorem rmw_seq_i64 (T : TCGTarget) (NAME : AtomicName) (s : TCGContext)
    (m : Machine) (ret addr val idx memop : Nat)
    (hseq : s.tb_cflags &&& CF_PARALLEL = 0) (hidx : idx < 16)
    (hal : ∀ x, x &&& MO_AMASK = memop &&& MO_AMASK → x &&& MO_SIZE = memop &&& MO_SIZE →
      T.alignment_valid x = true)
    (ha : addr + T.aw ≤ s.nb_temps) :
    ret + T.w64 ≤ s.nb_temps → val + T.w64 ≤ s.nb_temps →
      ∃ δ, emitted (tcg_gen_atomic_NAME_i64 T NAME ret addr val idx memop) s = some δ ∧
        (run δ m).mem = mem_st m.mem (T.ea m addr) memop
          (NAME.op 64
            (extend_from 64 (8 * 2 ^ (memop &&& MO_SIZE)) (NAME.SIGNED.extends_signed memop)
              (mem_ld 64 m.mem (T.ea m addr) (memop &&& bnot 32 MO_SIGN)))
            (extend_from 64 (8 * 2 ^ (memop &&& MO_SIZE)) (NAME.SIGNED.extends_signed memop)
              (m.get64 T val))) ∧
        mem_ld 64 (run δ m).mem (T.ea m addr) (memop &&& bnot 32 MO_SIGN) =
          (NAME.op 64
            (extend_from 64 (8 * 2 ^ (memop &&& MO_SIZE)) (NAME.SIGNED.extends_signed memop)
              (mem_ld 64 m.mem (T.ea m addr) (memop &&& bnot 32 MO_SIGN)))
            (extend_from 64 (8 * 2 ^ (memop &&& MO_SIZE)) (NAME.SIGNED.extends_signed memop)
              (m.get64 T val))) % 2 ^ (8 * 2 ^ (memop &&& MO_SIZE)) ∧
        (run δ m).get64 T ret =
          extend_from 64 (8 * 2 ^ (memop &&& MO_SIZE)) (decide (memop &&& MO_SIGN ≠ 0))
            (if NAME.NEW = true then
              NAME.op 64
                (extend_from 64 (8 * 2 ^ (memop &&& MO_SIZE))
                  (NAME.SIGNED.extends_signed memop)
                  (mem_ld 64 m.mem (T.ea m addr) (memop &&& bnot 32 MO_SIGN)))
                (extend_from 64 (8 * 2 ^ (memop &&& MO_SIZE))
                  (NAME.SIGNED.extends_signed memop) (m.get64 T val))
             else mem_ld 64 m.mem (T.ea m addr) (memop &&& bnot 32 MO_SIGN)) := by
  have hw1 := w64_pos T
  intro hr hv
  obtain ⟨c, d, e, hc, hd, he, hpos, hle, kl, ks, kt, kc⟩ :=
    rmw_fields T memop true NAME.SIGNED hal (fun h => absurd h (by decide))
  simp only [if_true] at hle kl kt kc
  have hE : tcg_gen_atomic_NAME_i64 T NAME ret addr val idx memop s =
      do_nonatomic_op_i64 T ret addr val idx memop NAME.NEW (NAME.OP_i64 T) NAME.SIGNED s := by
    unfold tcg_gen_atomic_NAME_i64
    simp only [Gen.bind_apply, tb_cflags, Gen.andThen_some, hseq, ne_eq, not_true_eq_false,
      if_false]
  obtain ⟨δ, hδ, R⟩ := (do_nonatomic_op_i64_sem T (r := ret) (a := addr) (v := val)
    (n := s.nb_temps) idx memop c d e NAME.NEW (NAME.OP_i64 T) NAME.SIGNED (NAME.op 64) hidx
    hc hd he (fun t ht => NAME.OP_i64_sem T (by omega) (by omega) (by omega) (by omega)
      (by omega)) hr hv ha).emitted s (le_refl _)
  have hL : ∀ mem ea, extend_from 64 (8 * 2 ^ (memop &&& MO_SIZE))
      (NAME.SIGNED.extends_signed memop) (mem_ld 64 mem ea (memop &&& bnot 32 MO_SIGN)) %
      2 ^ 64 = extend_from 64 (8 * 2 ^ (memop &&& MO_SIZE))
      (NAME.SIGNED.extends_signed memop) (mem_ld 64 mem ea (memop &&& bnot 32 MO_SIGN)) :=
    fun mem ea => Nat.mod_eq_of_lt (extend_from_lt 64 _ _ _ hle)
  have hV : ∀ x, extend_from 64 (8 * 2 ^ (memop &&& MO_SIZE))
      (NAME.SIGNED.extends_signed memop) x % 2 ^ 64 =
      extend_from 64 (8 * 2 ^ (memop &&& MO_SIZE)) (NAME.SIGNED.extends_signed memop) x :=
    fun x => Nat.mod_eq_of_lt (extend_from_lt 64 _ _ _ hle)
  have hX : ∀ b x, extend_from 64 (8 * 2 ^ (memop &&& MO_SIZE)) b x % 2 ^ 64 =
      extend_from 64 (8 * 2 ^ (memop &&& MO_SIZE)) b x :=
    fun b x => Nat.mod_eq_of_lt (extend_from_lt 64 _ _ _ hle)
  have hmem := (R m).1
  have hret := (R m).get64 T hr
  simp only [Machine.get64_set64_self, Machine.set64_mem, kl, ks, kt, kc, hL, hV, hX,
    mem_st_mod _ _ _ _ 64 hle] at hmem hret
  refine ⟨δ, ?_, hmem, ?_, ?_⟩
  · unfold emitted at hδ ⊢
    rw [hE]
    exact hδ
  · rw [hmem]
    exact mem_ld_mem_st 64 _ _ _ _ hle
  · rw [hret]
    have hmod : ∀ x, extend_from 64 (8 * 2 ^ (memop &&& MO_SIZE))
        (decide (memop &&& MO_SIGN ≠ 0)) (x % 2 ^ 64) =
        extend_from 64 (8 * 2 ^ (memop &&& MO_SIZE)) (decide (memop &&& MO_SIGN ≠ 0)) x :=
      fun x => by
        rw [← extend_from_low 64 _ _ (x % 2 ^ 64) hpos,
          Nat.mod_mod_of_dvd _ (Nat.pow_dvd_pow 2 hle), extend_from_low 64 _ _ x hpos]
    cases NAME.NEW
    · simp only [Bool.false_eq_true, if_false]
      exact extend_from_twice _ _ _ _ _ hpos
    · simp only [if_true]
      exact hmod _

/-- Two unsigned `MemOp`s of the same size and, above one byte, the same byte order load
the same value, into either container. -/
theorem mem_ld_unsigned_fields (w u : Nat) (mem : Nat → Nat) (ea x y : Nat)
    (hw : 8 * 2 ^ (y &&& MO_SIZE) ≤ w) (hu : 8 * 2 ^ (y &&& MO_SIZE) ≤ u)
    (h1 : x &&& MO_SIZE = y &&& MO_SIZE)
    (h2 : y &&& MO_SIZE = MO_8 ∨ x &&& MO_BSWAP = y &&& MO_BSWAP)
    (hx : x &&& MO_SIGN = 0) (hy : y &&& MO_SIGN = 0) :
    mem_ld w mem ea x = mem_ld u mem ea y := by
  rw [← mem_ld_raw w mem ea x (by rw [h1]; exact hw) hx, ← mem_ld_raw u mem ea y hu hy, h1]
  rcases h2 with h | h
  · simp only [h, bswap_size_zero, ite_self]
  · simp only [h]

theorem key_fields (c : Nat) :
    c &&& (MO_SIZE ||| MO_BSWAP) &&& MO_SIZE = c &&& MO_SIZE ∧
    c &&& (MO_SIZE ||| MO_BSWAP) &&& MO_BSWAP = c &&& MO_BSWAP ∧
    c &&& (MO_SIZE ||| MO_BSWAP) &&& MO_SIGN = 0 := by
  refine ⟨?_, ?_, ?_⟩
  · apply Nat.eq_of_testBit_eq; intro i
    simp only [Nat.testBit_and, Nat.testBit_or]
    cases c.testBit i <;> cases MO_SIZE.testBit i <;> simp
  · apply Nat.eq_of_testBit_eq; intro i
    simp only [Nat.testBit_and, Nat.testBit_or]
    cases c.testBit i <;> cases MO_BSWAP.testBit i <;> simp
  · apply Nat.eq_of_testBit_eq; intro i
    simp only [Nat.testBit_and, Nat.zero_testBit]
    rw [show MO_SIZE ||| MO_BSWAP = 11 from rfl, show MO_SIGN = 2 ^ 2 from rfl,
      Nat.testBit_two_pow]
    by_cases hi : 2 = i
    · subst hi; simp; intro _; decide
    · simp [hi]

theorem tcg_canonicalize_memop_det (T : TCGTarget) (op : Nat) (is64 st : Bool) (c d : Nat)
    (hc : ∀ s, tcg_canonicalize_memop T op is64 st s = (some c, s))
    (hd : ∀ s, tcg_canonicalize_memop T op is64 st s = (some d, s)) : c = d := by
  have := (hc (TCGContext.fresh 0)).symm.trans (hd (TCGContext.fresh 0))
  simpa using this

/-- The atomic read-modify-write lowering into a 32-bit container: what the emitted ops
leave in memory and in `ret`, the routine acting at the access size. -/
theorem rmw_atomic_i32 (T : TCGTarget) (NAME : AtomicName) (p : TCGContext)
    (m : Machine) (ret addr val idx memop : Nat)
    (hpar : p.tb_cflags &&& CF_PARALLEL ≠ 0) (hA : T.ASSERT_IF_CHERI = true)
    (hal : ∀ x, x &&& MO_AMASK = memop &&& MO_AMASK → x &&& MO_SIZE = memop &&& MO_SIZE →
      T.alignment_valid x = true)
    (ha : addr + T.aw ≤ p.nb_temps) (h64 : memop &&& MO_SIZE ≠ MO_64)
    (hr : ret < p.nb_temps) (hv : val < p.nb_temps) :
    ∃ δ, emitted (tcg_gen_atomic_NAME_i32 T NAME ret addr val idx memop) p = some δ ∧
      (run δ m).mem = mem_st m.mem (T.addr_val m addr) memop
        (NAME.op (8 * 2 ^ (memop &&& MO_SIZE))
          (mem_ld 32 m.mem (T.addr_val m addr) (memop &&& bnot 32 MO_SIGN))
          (m.regs val % 2 ^ (8 * 2 ^ (memop &&& MO_SIZE)))) ∧
      (run δ m).regs ret =
        extend_from 32 (8 * 2 ^ (memop &&& MO_SIZE)) (decide (memop &&& MO_SIGN ≠ 0))
          (if NAME.NEW = true then
            NAME.op (8 * 2 ^ (memop &&& MO_SIZE))
              (mem_ld 32 m.mem (T.addr_val m addr) (memop &&& bnot 32 MO_SIGN))
              (m.regs val % 2 ^ (8 * 2 ^ (memop &&& MO_SIZE)))
           else mem_ld 32 m.mem (T.addr_val m addr) (memop &&& bnot 32 MO_SIGN)) := by
  obtain ⟨c, hc, c1, c2, c3, c4⟩ := tcg_canonicalize_memop_ok T memop false false
    (hal memop rfl rfl) (fun _ => h64)
  obtain ⟨k1, k2, k3⟩ := key_fields c
  obtain ⟨f1, f2, f3, f4, f5, f6, f7, f8⟩ := memop_clear_facts memop
  have hle : 8 * 2 ^ (memop &&& MO_SIZE) ≤ 32 := by
    rcases memop_size_cases memop with h | h | h | h
    · rw [h]; decide
    · rw [h]; decide
    · rw [h]; decide
    · exact absurd h h64
  have hpos : 0 < 8 * 2 ^ (memop &&& MO_SIZE) := by positivity
  have hkb : memop &&& MO_SIZE = MO_8 ∨
      c &&& (MO_SIZE ||| MO_BSWAP) &&& MO_BSWAP = memop &&& MO_BSWAP := by
    rcases c3 with h | h
    · exact Or.inl h
    · right; rw [k2, h]
  have hE : tcg_gen_atomic_NAME_i32 T NAME ret addr val idx memop p =
      do_atomic_op_i32 T ret addr val idx memop (NAME.table T) p := by
    unfold tcg_gen_atomic_NAME_i32
    simp only [Gen.bind_apply, tb_cflags, Gen.andThen_some, hpar, ne_eq, not_false_eq_true,
      if_true]
  obtain ⟨δ, hδ, R⟩ := (do_atomic_op_i32_sem T NAME (r := ret) (a := addr) (v := val)
    (n := p.nb_temps) idx memop c hA hc hr hv ha).emitted p (le_refl _)
  have hld : mem_ld 32 m.mem (T.addr_val m addr) (c &&& (MO_SIZE ||| MO_BSWAP)) =
      mem_ld 32 m.mem (T.addr_val m addr) (memop &&& bnot 32 MO_SIGN) :=
    mem_ld_unsigned_fields 32 32 _ _ _ _ (by rw [f3]; exact hle) (by rw [f3]; exact hle)
      (by rw [k1, c1, f3]) (by rw [f3, f5]; exact hkb) k3 f1
  have hold := (mem_ld_eq_extend 32 m.mem (T.addr_val m addr) memop hle).2
  have hmem := (R m).1
  have hret := (R m).2 ret hr
  simp only [Machine.set_regs_self, Machine.set_mem, k1, c1, hld,
    mem_st_fields m.mem (T.addr_val m addr) _ memop _ (k1.trans c1) hkb] at hmem hret
  refine ⟨δ, ?_, hmem, ?_⟩
  · unfold emitted at hδ ⊢
    rw [hE]
    exact hδ
  · rw [hret]
    have hR : (if NAME.NEW = true then
        NAME.op (8 * 2 ^ (memop &&& MO_SIZE))
          (mem_ld 32 m.mem (T.addr_val m addr) (memop &&& bnot 32 MO_SIGN))
          (m.regs val % 2 ^ (8 * 2 ^ (memop &&& MO_SIZE)))
        else mem_ld 32 m.mem (T.addr_val m addr) (memop &&& bnot 32 MO_SIGN)) <
        2 ^ (8 * 2 ^ (memop &&& MO_SIZE)) := by
      split
      · exact AtomicName.op_lt NAME _ _ _ hold (Nat.mod_lt _ (Nat.two_pow_pos _))
      · exact hold
    have hs : decide (c &&& MO_SIGN ≠ 0) = decide (memop &&& MO_SIGN ≠ 0) ∨
        8 * 2 ^ (memop &&& MO_SIZE) = 32 := by
      rcases c4 with h | ⟨_, h | h⟩
      · left; rw [h]
      · exact absurd h (by decide)
      · right; rw [h.1]; decide
    rw [← extend_from_sign 32 _ _ _ _ hs]
    by_cases hsg : c &&& MO_SIGN ≠ 0
    · rw [if_pos hsg]
      simp only [hsg, ne_eq, not_false_eq_true, decide_True]
    · rw [if_neg hsg]
      simp only [hsg, decide_False]
      unfold extend_from
      simp only [Bool.false_eq_true, if_false]
      exact (Nat.mod_eq_of_lt hR).symm

/-- The atomic read-modify-write lowering into a 64-bit container, where it reaches a
routine (below 64 bits, or at 64 bits on a host with 64-bit atomics): what the emitted ops
leave in memory and in `ret`. -/
theorem rmw_atomic_i64 (T : TCGTarget) (NAME : AtomicName) (p : TCGContext)
    (m : Machine) (ret addr val idx memop : Nat)
    (hpar : p.tb_cflags &&& CF_PARALLEL ≠ 0) (hA : T.ASSERT_IF_CHERI = true)
    (hal : ∀ x, x &&& MO_AMASK = memop &&& MO_AMASK → x &&& MO_SIZE = memop &&& MO_SIZE →
      T.alignment_valid x = true)
    (ha : addr + T.aw ≤ p.nb_temps)
    (h64 : memop &&& MO_SIZE = MO_64 → T.CONFIG_ATOMIC64 = true)
    (hr : ret + T.w64 ≤ p.nb_temps) (hv : val + T.w64 ≤ p.nb_temps) :
    ∃ δ, emitted (tcg_gen_atomic_NAME_i64 T NAME ret addr val idx memop) p = some δ ∧
      (run δ m).mem = mem_st m.mem (T.addr_val m addr) memop
        (NAME.op (8 * 2 ^ (memop &&& MO_SIZE))
          (mem_ld 64 m.mem (T.addr_val m addr) (memop &&& bnot 32 MO_SIGN))
          (m.get64 T val % 2 ^ (8 * 2 ^ (memop &&& MO_SIZE)))) ∧
      (run δ m).get64 T ret =
        extend_from 64 (8 * 2 ^ (memop &&& MO_SIZE)) (decide (memop &&& MO_SIGN ≠ 0))
          (if NAME.NEW = true then
            NAME.op (8 * 2 ^ (memop &&& MO_SIZE))
              (mem_ld 64 m.mem (T.addr_val m addr) (memop &&& bnot 32 MO_SIGN))
              (m.get64 T val % 2 ^ (8 * 2 ^ (memop &&& MO_SIZE)))
           else mem_ld 64 m.mem (T.addr_val m addr) (memop &&& bnot 32 MO_SIGN)) := by
  have hw1 := w64_pos T
  obtain ⟨c, hc, c1, c2, c3, c4⟩ := tcg_canonicalize_memop_ok T memop true false
    (hal memop rfl rfl) (fun h => absurd h (by decide))
  obtain ⟨k1, k2, k3⟩ := key_fields c
  obtain ⟨f1, f2, f3, f4, f5, f6, f7, f8⟩ := memop_clear_facts memop
  have hle := size_bits_le_64 memop
  have hpos : 0 < 8 * 2 ^ (memop &&& MO_SIZE) := by positivity
  have hcs : c &&& MO_SIGN = memop &&& MO_SIGN := by
    rcases c4 with h | ⟨_, h | h⟩
    · exact h
    · exact absurd h (by decide)
    · exact absurd h.2 (by decide)
  have hE : tcg_gen_atomic_NAME_i64 T NAME ret addr val idx memop p =
      do_atomic_op_i64 T ret addr val idx memop (NAME.table T) p := by
    unfold tcg_gen_atomic_NAME_i64
    simp only [Gen.bind_apply, tb_cflags, Gen.andThen_some, hpar, ne_eq, not_false_eq_true,
      if_true]
  have hold := (mem_ld_eq_extend 64 m.mem (T.addr_val m addr) memop hle).2
  have hR : (if NAME.NEW = true then
        NAME.op (8 * 2 ^ (memop &&& MO_SIZE))
          (mem_ld 64 m.mem (T.addr_val m addr) (memop &&& bnot 32 MO_SIGN))
          (m.get64 T val % 2 ^ (8 * 2 ^ (memop &&& MO_SIZE)))
        else mem_ld 64 m.mem (T.addr_val m addr) (memop &&& bnot 32 MO_SIGN)) <
        2 ^ (8 * 2 ^ (memop &&& MO_SIZE)) := by
    split
    · exact AtomicName.op_lt NAME _ _ _ hold (Nat.mod_lt _ (Nat.two_pow_pos _))
    · exact hold
  have hR64 := lt_of_lt_of_le hR (Nat.pow_le_pow_right (by norm_num) hle)
  by_cases hsz : memop &&& MO_SIZE = MO_64
  · have hkb : memop &&& MO_SIZE = MO_8 ∨
        c &&& (MO_SIZE ||| MO_BSWAP) &&& MO_BSWAP = memop &&& MO_BSWAP := by
      rcases c3 with h | h
      · exact Or.inl h
      · right; rw [k2, h]
    obtain ⟨δ, hδ, R⟩ := (do_atomic_op_i64_sem_wide T NAME (r := ret) (a := addr) (v := val)
      (n := p.nb_temps) idx memop c hA (h64 hsz) hc (c1.trans hsz) hr hv ha).emitted p
      (le_refl _)
    have hld : mem_ld 64 m.mem (T.addr_val m addr) (c &&& (MO_SIZE ||| MO_BSWAP)) =
        mem_ld 64 m.mem (T.addr_val m addr) (memop &&& bnot 32 MO_SIGN) :=
      mem_ld_unsigned_fields 64 64 _ _ _ _ (by rw [f3]; exact hle) (by rw [f3]; exact hle)
        (by rw [k1, c1, f3]) (by rw [f3, f5]; exact hkb) k3 f1
    have hmem := (R m).1
    have hret := (R m).get64 T hr
    simp only [Machine.get64_set64_self, Machine.set64_mem, k1, c1, hld,
      mem_st_fields m.mem (T.addr_val m addr) _ memop _ (k1.trans c1) hkb] at hmem hret
    refine ⟨δ, ?_, hmem, ?_⟩
    · unfold emitted at hδ ⊢
      rw [hE]
      exact hδ
    · rw [hret, Nat.mod_eq_of_lt hR64]
      have e : 8 * 2 ^ (memop &&& MO_SIZE) = 64 := by rw [hsz]; decide
      rw [e] at hR64 ⊢
      rw [extend_from_self, Nat.mod_eq_of_lt hR64]
  · have hle32 : 8 * 2 ^ (memop &&& MO_SIZE) ≤ 32 := by
      rcases memop_size_cases memop with h | h | h | h
      · rw [h]; decide
      · rw [h]; decide
      · rw [h]; decide
      · exact absurd h hsz
    obtain ⟨g1, g2, g3, g4, g5, g6, g7, g8⟩ := memop_clear_facts c
    obtain ⟨d, hd, d1, d2, d3, d4⟩ := tcg_canonicalize_memop_ok T (c &&& bnot 32 MO_SIGN)
      false false (hal _ (by rw [g7, c2]) (by rw [g3, c1]))
      (fun _ => by rw [g3, c1]; exact hsz)
    obtain ⟨q1, q2, q3⟩ := key_fields d
    have hds : d &&& MO_SIGN = 0 := by
      rcases d4 with h | h
      · rw [h]; exact g1
      · exact h.1
    have hdz : d &&& MO_SIZE = memop &&& MO_SIZE := by rw [d1, g3, c1]
    have hkb : memop &&& MO_SIZE = MO_8 ∨
        d &&& (MO_SIZE ||| MO_BSWAP) &&& MO_BSWAP = memop &&& MO_BSWAP := by
      rcases d3 with h | h
      · left; rw [← c1, ← g3]; exact h
      · rcases c3 with k | k
        · exact Or.inl k
        · right; rw [q2, h, g5, k]
    obtain ⟨δ, hδ, R⟩ := (do_atomic_op_i64_sem_narrow T NAME (r := ret) (a := addr) (v := val)
      (n := p.nb_temps) idx memop c d hA hc hd (by rw [c1]; exact hsz) hds hr hv
      ha).emitted p (le_refl _)
    have hld : mem_ld 32 m.mem (T.addr_val m addr) (d &&& (MO_SIZE ||| MO_BSWAP)) =
        mem_ld 64 m.mem (T.addr_val m addr) (memop &&& bnot 32 MO_SIGN) :=
      mem_ld_unsigned_fields 32 64 _ _ _ _ (by rw [f3]; exact hle32) (by rw [f3]; exact hle)
        (by rw [q1, hdz, f3]) (by rw [f3, f5]; exact hkb) q3 f1
    have hvv : m.get64 T val % 2 ^ 32 % 2 ^ (8 * 2 ^ (memop &&& MO_SIZE)) =
        m.get64 T val % 2 ^ (8 * 2 ^ (memop &&& MO_SIZE)) :=
      Nat.mod_mod_of_dvd _ (Nat.pow_dvd_pow 2 hle32)
    have hR32 := lt_of_lt_of_le hR (Nat.pow_le_pow_right (by norm_num) hle32)
    have hmem := (R m).1
    have hret := (R m).get64 T hr
    simp only [Machine.get64_set64_self, Machine.set64_mem, q1, hdz, c1, hld, hvv,
      mem_st_fields m.mem (T.addr_val m addr) _ memop _ (q1.trans hdz) hkb,
      Nat.mod_eq_of_lt hR32, Nat.mod_eq_of_lt hR64, hcs] at hmem hret
    refine ⟨δ, ?_, hmem, ?_⟩
    · unfold emitted at hδ ⊢
      rw [hE]
      exact hδ
    · rw [hret]
      by_cases hsg : memop &&& MO_SIGN ≠ 0
      · rw [if_pos hsg]
        simp only [hsg, ne_eq, not_false_eq_true, decide_True]
        exact Nat.mod_eq_of_lt (extend_from_lt 64 _ _ _ hle)
      · rw [if_neg hsg]
        simp only [hsg, decide_False]
        unfold extend_from
        simp only [Bool.false_eq_true, if_false]
        rw [Nat.mod_eq_of_lt hR64, Nat.mod_eq_of_lt hR]

/-- The address of the sequential access is the address handed to the runtime routine
when a 32-bit guest address temporary holds a 32-bit value. -/
theorem ea_eq_addr_val (T : TCGTarget) (m : Machine) (addr : Nat)
    (h : T.target_long64 = false → m.regs addr < 2 ^ 32) :
    T.ea m addr = T.addr_val m addr := by
  unfold TCGTarget.ea
  split
  · rename_i hc
    have hl : T.target_long64 = false := by
      have := hc.1
      revert this
      cases T.target_long64 <;> simp
    have hr := h hl
    unfold TCGTarget.addr_val
    rw [if_neg (by rw [hl]; simp)]
    rw [Nat.mod_eq_of_lt hr, Nat.mod_eq_of_lt (lt_trans hr (by norm_num))]
  · rfl

/-- The value computed on extended operands and the value computed at the access size
store the same bytes and extend to the same returned value. -/
theorem rmw_values_agree (NAME : AtomicName) (w memop old val : Nat)
    (hw : 8 * 2 ^ (memop &&& MO_SIZE) ≤ w)
    (hold : old < 2 ^ (8 * 2 ^ (memop &&& MO_SIZE))) :
    NAME.op w
        (extend_from w (8 * 2 ^ (memop &&& MO_SIZE)) (NAME.SIGNED.extends_signed memop) old)
        (extend_from w (8 * 2 ^ (memop &&& MO_SIZE)) (NAME.SIGNED.extends_signed memop) val) %
          2 ^ (8 * 2 ^ (memop &&& MO_SIZE)) =
      NAME.op (8 * 2 ^ (memop &&& MO_SIZE)) old (val % 2 ^ (8 * 2 ^ (memop &&& MO_SIZE))) %
          2 ^ (8 * 2 ^ (memop &&& MO_SIZE)) ∧
    ∀ sg : Bool, extend_from w (8 * 2 ^ (memop &&& MO_SIZE)) sg
        (if NAME.NEW = true then
          NAME.op w
            (extend_from w (8 * 2 ^ (memop &&& MO_SIZE)) (NAME.SIGNED.extends_signed memop)
              old)
            (extend_from w (8 * 2 ^ (memop &&& MO_SIZE)) (NAME.SIGNED.extends_signed memop)
              val)
         else old) =
      extend_from w (8 * 2 ^ (memop &&& MO_SIZE)) sg
        (if NAME.NEW = true then
          NAME.op (8 * 2 ^ (memop &&& MO_SIZE)) old (val % 2 ^ (8 * 2 ^ (memop &&& MO_SIZE)))
         else old) := by
  have hpos : 0 < 8 * 2 ^ (memop &&& MO_SIZE) := by positivity
  have h1 := AtomicName.op_extend NAME w (8 * 2 ^ (memop &&& MO_SIZE)) memop old val hpos hw
    hold
  have h2 : NAME.op (8 * 2 ^ (memop &&& MO_SIZE)) old
      (val % 2 ^ (8 * 2 ^ (memop &&& MO_SIZE))) % 2 ^ (8 * 2 ^ (memop &&& MO_SIZE)) =
      NAME.op (8 * 2 ^ (memop &&& MO_SIZE)) old (val % 2 ^ (8 * 2 ^ (memop &&& MO_SIZE))) :=
    Nat.mod_eq_of_lt (AtomicName.op_lt NAME _ _ _ hold (Nat.mod_lt _ (Nat.two_pow_pos _)))
  refine ⟨h1.trans h2.symm, fun sg => ?_⟩
  split
  · have := congrArg (extend_from w (8 * 2 ^ (memop &&& MO_SIZE)) sg) (h1.trans h2.symm)
    simpa only [extend_from_low _ _ _ _ hpos] using this
  · rfl

theorem calledAt_bind_pre {α : Type} {g1 : Gen α} {k : α → Gen Unit} {s : TCGContext} {a : α}
    {δ0 : List TCGOp} {k0 : Nat} {B : Gen Unit} {Q P : Machine → Machine → Prop}
    (h1 : g1 s = (some a, s.extend δ0 k0)) (h2 : CalledAt (k a) (s.extend δ0 k0) B P)
    (hQ : ∀ m m', P (run δ0 m) m' → Q m m') : CalledAt (g1 >>= k) s B Q := by
  obtain ⟨δ1, k1, δb, kb, δ3, k3, e, eB, q⟩ := h2
  refine ⟨δ0 ++ δ1, k0 + k1, δb, kb, δ3, k3, ?_, ?_, fun m => ?_⟩
  · rw [Gen.bind_apply, h1, Gen.andThen_some, e, TCGContext.extend_extend s]
  · rw [← TCGContext.extend_extend s]
    exact eB
  · rw [run_append]
    exact hQ _ _ (q _)

/-- A prefix with a meaning in front of the call. -/
theorem calledAt_sem_pre {g1 : Gen Unit} {k : Unit → Gen Unit} {s : TCGContext} {n : Nat}
    {F : Machine → Machine} {B : Gen Unit} {Q P : Machine → Machine → Prop}
    (h1 : Sem g1 n F) (hn : n ≤ s.nb_temps)
    (h2 : ∀ s' : TCGContext, s.nb_temps ≤ s'.nb_temps → CalledAt (k ()) s' B P)
    (hQ : ∀ m m0 m', Agree s.nb_temps m0 (F m) → P m0 m' → Q m m') :
    CalledAt (g1 >>= k) s B Q := by
  obtain ⟨δ0, k0, e0, r0⟩ := h1.2 s hn
  exact calledAt_bind_pre e0 (h2 _ (by rw [TCGContext.extend_nb_temps]; omega))
    (fun m m' q => hQ m _ m' (r0 m) q)

/-- The call itself, followed by a rest. -/
theorem calledAt_here {B : Gen Unit} {R : Unit → Gen Unit} {s : TCGContext} {n : Nat}
    {FB FR : Machine → Machine} {Q : Machine → Machine → Prop}
    (hB : Sem B n FB) (hR : Sem (R ()) n FR) (hn : n ≤ s.nb_temps) (hQ : ∀ m, Q m m) :
    CalledAt (B >>= R) s B Q := by
  obtain ⟨δb, kb, eb, _⟩ := hB.2 s hn
  obtain ⟨δ3, k3, e3, _⟩ := hR.2 (s.extend δb kb) (by rw [TCGContext.extend_nb_temps]; omega)
  refine ⟨[], 0, δb, kb, δ3, k3, ?_, ?_, fun m => hQ m⟩
  · rw [TCGContext.extend_nil, Gen.bind_apply, eb, Gen.andThen_some, e3]
  · rw [TCGContext.extend_nil]
    exact eb

/-- Ops emitted after the emitter that makes the call. -/
theorem calledAt_bind_post {g : Gen Unit} {R : Unit → Gen Unit} {s : TCGContext} {n : Nat}
    {FR : Machine → Machine} {B : Gen Unit} {Q : Machine → Machine → Prop}
    (h : CalledAt g s B Q) (hR : Sem (R ()) n FR) (hn : n ≤ s.nb_temps) :
    CalledAt (g >>= R) s B Q := by
  obtain ⟨δ1, k1, δb, kb, δ3, k3, e, eB, q⟩ := h
  obtain ⟨δ4, k4, e4, _⟩ := hR.2 (((s.extend δ1 k1).extend δb kb).extend δ3 k3)
    (by simp only [TCGContext.extend_nb_temps]; omega)
  refine ⟨δ1, k1, δb, kb, δ3 ++ δ4, k3 + k4, ?_, eB, q⟩
  rw [Gen.bind_apply, e, Gen.andThen_some, e4, TCGContext.extend_extend _ δ3]

/-- A fresh 32-bit temporary in front of the call. -/
theorem calledAt_new {body : TCGv_i32 → Gen Unit} {s : TCGContext} {B : Gen Unit}
    {Q : Machine → Machine → Prop}
    (h : CalledAt (body s.nb_temps) (s.extend [] 1) B Q) :
    CalledAt (tcg_temp_new_i32 >>= body) s B Q :=
  calledAt_bind_pre (show tcg_temp_new_i32 s = (some s.nb_temps, s.extend [] 1) by
    simp [tcg_temp_new_i32, TCGContext.extend]) h (fun _ _ q => q)

/-- A fresh 64-bit temporary in front of the call. -/
theorem calledAt_new64 (T : TCGTarget) {body : TCGv_i64 → Gen Unit} {s : TCGContext}
    {B : Gen Unit} {Q : Machine → Machine → Prop}
    (h : CalledAt (body s.nb_temps) (s.extend [] T.w64) B Q) :
    CalledAt (tcg_temp_new_i64 T >>= body) s B Q :=
  calledAt_bind_pre (show tcg_temp_new_i64 T s = (some s.nb_temps, s.extend [] T.w64) by
    simp [tcg_temp_new_i64, TCGContext.extend]) h (fun _ _ q => q)

theorem calledAt_mono {g : Gen Unit} {s : TCGContext} {B : Gen Unit}
    {Q P : Machine → Machine → Prop} (h : CalledAt g s B P)
    (hQ : ∀ m m', P m m' → Q m m') : CalledAt g s B Q := by
  obtain ⟨δ1, k1, δb, kb, δ3, k3, e, eB, q⟩ := h
  exact ⟨δ1, k1, δb, kb, δ3, k3, e, eB, fun m => hQ _ _ (q m)⟩

theorem canonicalize_eq_pure (T : TCGTarget) (memop c : Nat) (is64 st : Bool)
    (hc : ∀ s, tcg_canonicalize_memop T memop is64 st s = (some c, s)) :
    tcg_canonicalize_memop T memop is64 st = pure c :=
  funext hc

/-- The 16-bit swap of a 32-bit store on a host without memory byte swap is made on a
fresh temporary holding the value zero-extended from 16 bits. -/
theorem st_i32_swap_called (T : TCGTarget) (s : TCGContext) (val addr idx memop c : Nat)
    (inv : Bool) (hB : T.TCG_TARGET_HAS_MEMORY_BSWAP = false) (hidx : idx < 16)
    (hc : ∀ s, tcg_canonicalize_memop T memop false true s = (some c, s))
    (hb : c &&& MO_BSWAP ≠ 0) (h16 : c &&& MO_SIZE = MO_16)
    (hv : val < s.nb_temps) (ha : addr + T.aw ≤ s.nb_temps) :
    ∃ t, s.nb_temps ≤ t ∧
      CalledAt (tcg_gen_qemu_st_i32_with_checked_addr_cond_invalidate T val addr idx memop inv)
        s (tcg_gen_bswap16_i32 T t t)
        (fun m m' => m'.regs t = m.regs val % 2 ^ 16 ∧ Agree s.nb_temps m' m) := by
  have haw := aw_pos T
  have hE : ¬T.TCG_TARGET_HAS_MEMORY_BSWAP = true ∧ c &&& MO_BSWAP ≠ 0 := ⟨by simp [hB], hb⟩
  have hG : ∀ (v d N : Nat), v < N → ∀ x, Local N (fun m : Machine =>
      { m with mem := (mem_st m.mem x d (m.regs v % 2 ^ 32)) }) := by
    intro v d N hvN x N' hN' m m' h
    refine ⟨?_, h.2⟩
    show mem_st m.mem x d (m.regs v % 2 ^ 32) = mem_st m'.mem x d (m'.regs v % 2 ^ 32)
    rw [h.1, h.2 v (by omega)]
  have htail : ∀ (v d N : Nat), v < N → s.nb_temps ≤ N → ∀ g, _ → Sem g N _ :=
    fun v d N hvN hN =>
    st_tail_sem_of T v idx d (T.trace_mem_get_info memop idx true) inv .qemu_log_instr_store32
      (fun a => gen_ldst_i32 T .qemu_st_i32 v a d idx) (fun _ _ => rfl)
      (show addr + T.aw ≤ N by omega) (hG v d N hvN)
      (fun N' a hN' haN' => gen_ldst_i32_st_sem T d idx hidx haN' (by omega))
  obtain ⟨δa, ka, ea, ra⟩ :=
    (tcg_gen_req_mo_sem T (TCG_MO_LD_ST ||| TCG_MO_ST_ST) s.nb_temps).2 s (le_refl _)
  obtain ⟨δb, kb, eb, rb⟩ :=
    (trace_guest_mem_before_tcg_sem T addr (T.trace_mem_get_info memop idx true)
      s.nb_temps).2 (s.extend δa ka) (by rw [TCGContext.extend_nb_temps]; omega)
  refine ⟨s.nb_temps + ka + kb, by omega, ?_⟩
  unfold tcg_gen_qemu_st_i32_with_checked_addr_cond_invalidate
  simp only []
  rw [canonicalize_eq_pure T memop c false true hc]
  simp only [Gen.pure_bind, if_pos hE, Gen.bind_assoc, Gen.ite_bind, if_pos h16]
  refine calledAt_bind_pre
    (P := fun m0 m' => m'.regs (s.nb_temps + ka + kb) = m0.regs val % 2 ^ 16 ∧
      Agree s.nb_temps m' m0) ea ?_ (fun m m' q => ?_)
  swap
  · have h := ra m
    exact ⟨by rw [q.1, h.2 val hv]; rfl, q.2.trans h⟩
  refine calledAt_bind_pre
    (P := fun m0 m' => m'.regs (s.nb_temps + ka + kb) = m0.regs val % 2 ^ 16 ∧
      Agree s.nb_temps m' m0) eb ?_ (fun m m' q => ?_)
  swap
  · have h := rb m
    exact ⟨by rw [q.1, h.2 val (by rw [TCGContext.extend_nb_temps]; omega)]; rfl,
      q.2.trans (h.mono (by rw [TCGContext.extend_nb_temps]; omega))⟩
  refine calledAt_new (calledAt_sem_pre (P := fun m0 m' => m' = m0)
      (tcg_gen_ext16u_i32_sem T (r := s.nb_temps + ka + kb) (a := val)
        (n := s.nb_temps + ka + kb + 1) (by omega))
      (le_refl _)
      (fun s' hs' => calledAt_here
        (tcg_gen_bswap16_i32_sem T (r := s.nb_temps + ka + kb) (a := s.nb_temps + ka + kb)
          (n := s.nb_temps + ka + kb + 1) (by omega) (by omega))
        (htail (s.nb_temps + ka + kb) (c &&& bnot 32 MO_BSWAP) (s.nb_temps + ka + kb + 1)
          (by omega) (by omega) _
          (by simp only [Gen.bind_assoc, Gen.pure_bind, TCGContext.extend_nb_temps]))
        hs' (fun m => rfl))
      (fun m m0 m' hag e => ?_))
  subst e
  refine ⟨?_, ?_⟩
  · exact (hag.2 (s.nb_temps + ka + kb) (Nat.lt_succ_self _)).trans
      (Machine.set_regs_self _ _ _)
  · exact ⟨hag.1, fun i hi => by
      rw [hag.2 i (by simp only [TCGContext.extend_nb_temps]; omega),
        Machine.set_regs_ne _ _ (by omega)]⟩

/-- The 16-bit and the 32-bit swap of a 64-bit store on a 64-bit host without memory byte
swap are made on a fresh temporary holding the value zero-extended from the access
size. -/
theorem st_i64_swap_called (T : TCGTarget) (s : TCGContext) (val addr idx memop c : Nat)
    (inv : Bool) (hT : T.reg64 = true) (hB : T.TCG_TARGET_HAS_MEMORY_BSWAP = false)
    (hidx : idx < 16)
    (hc : ∀ s, tcg_canonicalize_memop T memop true true s = (some c, s))
    (hb : c &&& MO_BSWAP ≠ 0)
    (hv : val + T.w64 ≤ s.nb_temps) (ha : addr + T.aw ≤ s.nb_temps) :
    ∃ t, s.nb_temps ≤ t ∧
      (c &&& MO_SIZE = MO_16 →
        CalledAt (tcg_gen_qemu_st_i64_with_checked_addr_cond_invalidate T val addr idx memop
          inv) s (tcg_gen_bswap16_i64 T t t)
          (fun m m' => m'.get64 T t = m.get64 T val % 2 ^ 16 ∧ Agree s.nb_temps m' m)) ∧
      (c &&& MO_SIZE = MO_32 →
        CalledAt (tcg_gen_qemu_st_i64_with_checked_addr_cond_invalidate T val addr idx memop
          inv) s (tcg_gen_bswap32_i64 T t t)
          (fun m m' => m'.get64 T t = m.get64 T val % 2 ^ 32 ∧ Agree s.nb_temps m' m)) := by
  have haw := aw_pos T
  have hw1 := w64_pos T
  have hE : ¬T.TCG_TARGET_HAS_MEMORY_BSWAP = true ∧ c &&& MO_BSWAP ≠ 0 := ⟨by simp [hB], hb⟩
  have hA : ¬(¬ T.reg64 = true ∧ memop &&& MO_SIZE < MO_64) := fun h => h.1 hT
  have hG : ∀ (v d N : Nat), v + T.w64 ≤ N → ∀ x, Local N (fun m : Machine =>
      { m with mem := (mem_st m.mem x d (m.get64 T v)) }) := by
    intro v d N hvN x N' hN' m m' h
    refine ⟨?_, h.2⟩
    show mem_st m.mem x d (m.get64 T v) = mem_st m'.mem x d (m'.get64 T v)
    rw [h.1, (h.mono hN').get64 T hvN]
  have htail : ∀ (v d N : Nat), v + T.w64 ≤ N → s.nb_temps ≤ N → ∀ g, _ → Sem g N _ :=
    fun v d N hvN hN =>
    st_tail_sem_of T v idx d (T.trace_mem_get_info c idx true) inv .qemu_log_instr_store64
      (fun a => gen_ldst_i64 T .qemu_st_i64 v a d idx) (fun _ _ => rfl)
      (show addr + T.aw ≤ N by omega) (hG v d N hvN)
      (fun N' a hN' haN' => gen_ldst_i64_st_sem T d idx hidx haN' (by omega))
  obtain ⟨δa, ka, ea, ra⟩ :=
    (tcg_gen_req_mo_sem T (TCG_MO_LD_ST ||| TCG_MO_ST_ST) s.nb_temps).2 s (le_refl _)
  obtain ⟨δb, kb, eb, rb⟩ :=
    (trace_guest_mem_before_tcg_sem T addr (T.trace_mem_get_info c idx true)
      s.nb_temps).2 (s.extend δa ka) (by rw [TCGContext.extend_nb_temps]; omega)
  have hpre : ∀ (l : Nat) (m m0 m' : Machine), Agree s.nb_temps m0 m →
      (m'.get64 T (s.nb_temps + ka + kb) = m0.get64 T val % 2 ^ l ∧
        Agree s.nb_temps m' m0) →
      m'.get64 T (s.nb_temps + ka + kb) = m.get64 T val % 2 ^ l ∧ Agree s.nb_temps m' m := by
    intro l m m0 m' h1 q
    exact ⟨by rw [q.1, h1.get64 T hv], q.2.trans h1⟩
  have rb' : ∀ m, Agree s.nb_temps (run δb m) m := fun m =>
    (rb m).mono (by rw [TCGContext.extend_nb_temps]; omega)
  have hpost : ∀ (l : Nat) (m m0 : Machine), l ≤ 64 →
      Agree (s.nb_temps + ka + kb + T.w64) m0
        (m.set64 T (s.nb_temps + ka + kb) (m.get64 T val % 2 ^ l)) →
      m0.get64 T (s.nb_temps + ka + kb) = m.get64 T val % 2 ^ l ∧ Agree s.nb_temps m0 m := by
    intro l m m0 hl hag
    refine ⟨?_, ?_⟩
    · rw [hag.get64 T (le_refl _), Machine.get64_set64_self]
      exact Nat.mod_eq_of_lt (lt_of_lt_of_le (Nat.mod_lt _ (Nat.two_pow_pos _))
        (Nat.pow_le_pow_right (by norm_num) hl))
    · exact ⟨hag.1.trans (by simp), fun i hi => by
        rw [hag.2 i (by omega), Machine.set64_regs_ne T _ _ (by omega)]⟩
  refine ⟨s.nb_temps + ka + kb, by omega, fun h16 => ?_, fun h32 => ?_⟩
  · unfold tcg_gen_qemu_st_i64_with_checked_addr_cond_invalidate
    simp only []
    rw [if_neg hA, canonicalize_eq_pure T memop c true true hc]
    simp only [Gen.pure_bind, if_pos hE, Gen.bind_assoc, Gen.ite_bind, if_pos h16]
    refine calledAt_bind_pre
      (P := fun m0 m' => m'.get64 T (s.nb_temps + ka + kb) = m0.get64 T val % 2 ^ 16 ∧
        Agree s.nb_temps m' m0) ea
      (calledAt_bind_pre
        (P := fun m0 m' => m'.get64 T (s.nb_temps + ka + kb) = m0.get64 T val % 2 ^ 16 ∧
          Agree s.nb_temps m' m0) eb ?_ (fun m m' q => hpre 16 m _ m' (rb' m) q))
      (fun m m' q => hpre 16 m _ m' (ra m) q)
    refine calledAt_new64 T (calledAt_sem_pre (P := fun m0 m' => m' = m0)
      (tcg_gen_ext16u_i64_sem T (r := s.nb_temps + ka + kb) (a := val)
        (n := s.nb_temps + ka + kb + T.w64) (by omega) (by omega))
      (le_refl _)
      (fun s' hs' => calledAt_here
        (tcg_gen_bswap16_i64_sem T (r := s.nb_temps + ka + kb) (a := s.nb_temps + ka + kb)
          (n := s.nb_temps + ka + kb + T.w64) (by omega) (by omega) (Or.inl rfl))
        (htail (s.nb_temps + ka + kb) (c &&& bnot 32 MO_BSWAP)
          (s.nb_temps + ka + kb + T.w64) (by omega) (by omega) _
          (by simp only [Gen.bind_assoc, Gen.pure_bind, TCGContext.extend_nb_temps]))
        hs' (fun m => rfl))
      (fun m m0 m' hag e => ?_))
    subst e
    exact hpost 16 m m' (by norm_num) hag
  · have h16 : ¬ c &&& MO_SIZE = MO_16 := by rw [h32]; decide
    unfold tcg_gen_qemu_st_i64_with_checked_addr_cond_invalidate
    simp only []
    rw [if_neg hA, canonicalize_eq_pure T memop c true true hc]
    simp only [Gen.pure_bind, if_pos hE, Gen.bind_assoc, Gen.ite_bind, if_neg h16, if_pos h32]
    refine calledAt_bind_pre
      (P := fun m0 m' => m'.get64 T (s.nb_temps + ka + kb) = m0.get64 T val % 2 ^ 32 ∧
        Agree s.nb_temps m' m0) ea
      (calledAt_bind_pre
        (P := fun m0 m' => m'.get64 T (s.nb_temps + ka + kb) = m0.get64 T val % 2 ^ 32 ∧
          Agree s.nb_temps m' m0) eb ?_ (fun m m' q => hpre 32 m _ m' (rb' m) q))
      (fun m m' q => hpre 32 m _ m' (ra m) q)
    refine calledAt_new64 T (calledAt_sem_pre (P := fun m0 m' => m' = m0)
      (tcg_gen_ext32u_i64_sem T (r := s.nb_temps + ka + kb) (a := val)
        (n := s.nb_temps + ka + kb + T.w64) (by omega) (by omega))
      (le_refl _)
      (fun s' hs' => calledAt_here
        (tcg_gen_bswap32_i64_sem T (r := s.nb_temps + ka + kb) (a := s.nb_temps + ka + kb)
          (n := s.nb_temps + ka + kb + T.w64) (by omega) (by omega) (Or.inl rfl))
        (htail (s.nb_temps + ka + kb) (c &&& bnot 32 MO_BSWAP)
          (s.nb_temps + ka + kb + T.w64) (by omega) (by omega) _
          (by simp only [Gen.bind_assoc, Gen.pure_bind, TCGContext.extend_nb_temps]))
        hs' (fun m => rfl))
      (fun m m0 m' hag e => ?_))
    subst e
    exact hpost 32 m m' (by norm_num) hag

/-- A copy of the guest address into a fresh temporary in front of the call. -/
theorem calledAt_addr_copy (T : TCGTarget) {k : TCGv → Gen Unit} {s : TCGContext}
    {addr : Nat} {B : Gen Unit} {Q : Machine → Prop} (ha : addr + T.aw ≤ s.nb_temps)
    (hk : ∀ (s' : TCGContext) (a : Nat), s.nb_temps ≤ s'.nb_temps → a + T.aw ≤ s'.nb_temps →
      CalledAt (k a) s' B (fun _ m' => Q m')) :
    CalledAt (tcg_temp_new_cap_checked T >>= fun t => tcg_gen_mov_tl T t addr >>= fun _ => k t)
      s B (fun _ m' => Q m') := by
  have hw1 := w64_pos T
  have haw := aw_pos T
  unfold tcg_temp_new_cap_checked tcg_gen_mov_tl
  cases hl : T.target_long64
  · have hawl : T.aw = 1 := by simp [TCGTarget.aw, hl]
    simp only [Bool.false_eq_true, if_false]
    exact calledAt_new (calledAt_sem_pre
      (tcg_gen_mov_i32_sem (r := s.nb_temps) (a := addr) (n := s.nb_temps + 1) (by omega))
      (le_refl _)
      (fun s' hs' => hk s' s.nb_temps
        (by rw [TCGContext.extend_nb_temps] at hs'; omega)
        (by rw [TCGContext.extend_nb_temps] at hs'; omega))
      (fun _ _ _ _ q => q))
  · have hawl : T.aw = T.w64 := by simp [TCGTarget.aw, hl]
    simp only [if_true]
    exact calledAt_new64 T (calledAt_sem_pre
      (tcg_gen_mov_i64_sem T (r := s.nb_temps) (a := addr) (n := s.nb_temps + T.w64)
        (by omega) (by omega))
      (le_refl _)
      (fun s' hs' => hk s' s.nb_temps
        (by rw [TCGContext.extend_nb_temps] at hs'; omega)
        (by rw [TCGContext.extend_nb_temps] at hs'; omega))
      (fun _ _ _ _ q => q))

/-- The address copy made for the plugin instrumentation, in front of the call. -/
theorem calledAt_plugin_prep (T : TCGTarget) {k : TCGv → Gen Unit} {s : TCGContext}
    {addr : Nat} {B : Gen Unit} {Q : Machine → Prop} (ha : addr + T.aw ≤ s.nb_temps)
    (hk : ∀ (s' : TCGContext) (a : Nat), s.nb_temps ≤ s'.nb_temps → a + T.aw ≤ s'.nb_temps →
      CalledAt (k a) s' B (fun _ m' => Q m')) :
    CalledAt (plugin_prep_mem_callbacks T addr >>= k) s B (fun _ m' => Q m') := by
  unfold plugin_prep_mem_callbacks
  cases hp : T.plugin_insn
  · simp only [Bool.false_eq_true, if_false, Gen.pure_bind]
    exact hk s addr (le_refl _) ha
  · simp only [if_true, Gen.bind_assoc, Gen.pure_bind]
    exact calledAt_addr_copy T ha hk

/-- The copy of the address kept for the instruction log, in front of the call. -/
theorem calledAt_saved_addr (T : TCGTarget) {k : TCGv → Gen Unit} {s : TCGContext}
    {addr val : Nat} {B : Gen Unit} {Q : Machine → Prop} (c : Prop) [Decidable c]
    (ha : addr + T.aw ≤ s.nb_temps)
    (hk : ∀ (s' : TCGContext) (sv : Nat), s.nb_temps ≤ s'.nb_temps →
      CalledAt (k sv) s' B (fun _ m' => Q m')) :
    CalledAt ((if c then
        (if addr = val then (do
          let saved ← tcg_temp_new_cap_checked T
          tcg_gen_mov_tl T saved addr
          pure saved) else pure addr)
      else pure addr) >>= k) s B (fun _ m' => Q m') := by
  split_ifs
  · simp only [Gen.bind_assoc, Gen.pure_bind]
    exact calledAt_addr_copy T ha (fun s' a hs' _ => hk s' a hs')
  · rw [Gen.pure_bind]
    exact hk s addr (le_refl _)
  · rw [Gen.pure_bind]
    exact hk s addr (le_refl _)

/-- A prefix that leaves the temporaries alone, in front of the call. -/
theorem calledAt_id_pre {g1 : Gen Unit} {k : Unit → Gen Unit} {s : TCGContext} {n : Nat}
    {B : Gen Unit} {Q : Machine → Prop} (h1 : Sem g1 n id) (hn : n ≤ s.nb_temps)
    (h2 : ∀ s' : TCGContext, s.nb_temps ≤ s'.nb_temps →
      CalledAt (k ()) s' B (fun _ m' => Q m')) :
    CalledAt (g1 >>= k) s B (fun _ m' => Q m') :=
  calledAt_sem_pre h1 hn h2 (fun _ _ _ _ q => q)

/-- An emitter that returns a value and emits nothing, in front of the call. -/
theorem calledAt_val_pre {α : Type} {g1 : Gen α} {k : α → Gen Unit} {s : TCGContext} (c : α)
    {B : Gen Unit} {Q : Machine → Machine → Prop} (hc : ∀ s, g1 s = (some c, s))
    (h : CalledAt (k c) s B Q) : CalledAt (g1 >>= k) s B Q := by
  obtain ⟨δ1, k1, δb, kb, δ3, k3, e, eB, q⟩ := h
  exact ⟨δ1, k1, δb, kb, δ3, k3, by rw [Gen.bind_apply, hc s, Gen.andThen_some, e], eB, q⟩

/-- A prefix that leaves the temporaries alone, in front of a call made on a value the
prefix's input already holds. -/
theorem calledAt_keep_pre {g1 : Gen Unit} {k : Unit → Gen Unit} {s : TCGContext} {n : Nat}
    {B : Gen Unit} {f : Machine → Nat} (h1 : Sem g1 n id) (hn : n ≤ s.nb_temps)
    (hf : ∀ m m', Agree s.nb_temps m m' → f m = f m')
    (h2 : ∀ s' : TCGContext, s.nb_temps ≤ s'.nb_temps →
      CalledAt (k ()) s' B (fun m0 m' => f m' = f m0)) :
    CalledAt (g1 >>= k) s B (fun m0 m' => f m' = f m0) :=
  calledAt_sem_pre h1 hn h2 (fun _ _ _ hag q => q.trans (hf _ _ hag))

/-- The 16-bit swap of a 32-bit load on a host without memory byte swap is made on the
value an unsigned 16-bit access has delivered. -/
theorem ld_i32_swap_called (T : TCGTarget) (s : TCGContext) (val addr idx memop c : Nat)
    (hB : T.TCG_TARGET_HAS_MEMORY_BSWAP = false) (hidx : idx < 16)
    (hc : ∀ s, tcg_canonicalize_memop T memop false false s = (some c, s))
    (hb : c &&& MO_BSWAP ≠ 0) (h16 : c &&& MO_SIZE = MO_16)
    (hv : val < s.nb_temps) (ha : addr + T.aw ≤ s.nb_temps) :
    CalledAt (tcg_gen_qemu_ld_i32_with_checked_addr T val addr idx memop) s
      (tcg_gen_bswap16_i32 T val val) (fun _ m' => m'.regs val < 2 ^ 16) := by
  obtain ⟨hc8, hc64, hc32⟩ := canonical_ld_i32_facts T memop c (TCGContext.fresh 0) (hc _)
  have hE : ¬T.TCG_TARGET_HAS_MEMORY_BSWAP = true ∧ c &&& MO_BSWAP ≠ 0 := ⟨by simp [hB], hb⟩
  unfold tcg_gen_qemu_ld_i32_with_checked_addr
  simp only []
  refine calledAt_id_pre (tcg_gen_req_mo_sem T _ s.nb_temps) (le_refl _) (fun s1 h1 =>
    calledAt_val_pre c hc (calledAt_id_pre (trace_guest_mem_before_tcg_sem T _ _ s.nb_temps) h1
      (fun s2 h2 => calledAt_plugin_prep T (by omega) (fun s3 a h3 ha3 =>
        calledAt_saved_addr T _ ha3 (fun s4 sv h4 => ?_)))))
  have hv4 : val < s4.nb_temps := by omega
  have ha4 : a + T.aw ≤ s4.nb_temps := by omega
  have hlog := fun d N => log_instr_sem T .qemu_log_instr_load32 sv val d N (fun _ _ => rfl)
  simp only [if_pos hE]
  generalize hD : (if c &&& bnot 32 MO_BSWAP &&& MO_SSIZE = MO_SW then
        c &&& bnot 32 MO_BSWAP &&& bnot 32 MO_SIGN else c &&& bnot 32 MO_BSWAP) = D
  obtain ⟨d1, d2, d3, d4⟩ := ld_i32_desc_facts c hb hc32 (Or.inl h16) D hD
  rw [if_pos d4]
  simp only [if_pos h16]
  refine calledAt_id_pre (gen_rvfi_dii_set_field_sem T _ _ s4.nb_temps) (le_refl _)
    (fun s5 h5 => calledAt_sem_pre (P := fun m0 m' => m'.regs val = m0.regs val)
      (@gen_ldst_i32_ld_sem T val a s4.nb_temps D idx hidx ha4)
      h5
      (fun s6 h6 => calledAt_keep_pre (gen_rvfi_dii_set_field_sem T _ _ s4.nb_temps)
        (by omega) (fun m m' hag => hag.2 val (by omega))
        (fun s7 h7 => calledAt_keep_pre
          (gen_rvfi_dii_set_field_const_i32_sem T _ _ s4.nb_temps)
          (by omega) (fun m m' hag => hag.2 val (by omega))
          (fun s8 h8 => calledAt_keep_pre (plugin_gen_mem_callbacks_sem T _ _ s4.nb_temps)
            (by omega) (fun m m' hag => hag.2 val (by omega))
            (fun s9 h9 => ?_))))
      (fun m m0 m' hag q => ?_))
  · have hv9 : val < s9.nb_temps := by omega
    by_cases hs : c &&& MO_SIGN ≠ 0
    · simp only [if_pos hs]
      exact calledAt_here (tcg_gen_bswap16_i32_sem T hv9 hv9)
        (Sem.bind (tcg_gen_ext16s_i32_sem T hv9 hv9) (hlog _ _)) (le_refl _) (fun m => rfl)
    · simp only [if_neg hs]
      exact calledAt_here (tcg_gen_bswap16_i32_sem T hv9 hv9)
        (Sem.bind_id (Sem.pure _) (hlog _ _)) (le_refl _) (fun m => rfl)
  · show m'.regs val < 2 ^ 16
    rw [q, hag.2 val (by omega), Machine.set_regs_self]
    exact (mem_ld_swap16 m.mem (T.addr_val m a) c D h16 hb d1 d2 d3).1

/-- The 16-bit swap of a 64-bit load on a 64-bit host without memory byte swap is made
on the value an unsigned 16-bit access has delivered. -/
theorem ld_i64_swap16_called (T : TCGTarget) (s : TCGContext) (val addr idx memop c : Nat)
    (hT : T.reg64 = true) (hB : T.TCG_TARGET_HAS_MEMORY_BSWAP = false) (hidx : idx < 16)
    (hc : ∀ s, tcg_canonicalize_memop T memop true false s = (some c, s))
    (hb : c &&& MO_BSWAP ≠ 0) (hsz : c &&& MO_SIZE = MO_16)
    (hv : val + T.w64 ≤ s.nb_temps) (ha : addr + T.aw ≤ s.nb_temps) :
    CalledAt (tcg_gen_qemu_ld_i64_with_checked_addr T val addr idx memop) s
      (tcg_gen_bswap16_i64 T val val) (fun _ m' => m'.get64 T val < 2 ^ 16) := by
  have hw1 := w64_pos T
  have hE : ¬T.TCG_TARGET_HAS_MEMORY_BSWAP = true ∧ c &&& MO_BSWAP ≠ 0 := ⟨by simp [hB], hb⟩
  have hA : ¬(¬ T.reg64 = true ∧ memop &&& MO_SIZE < MO_64) := fun h => h.1 hT
  unfold tcg_gen_qemu_ld_i64_with_checked_addr
  simp only []
  rw [if_neg hA]
  refine calledAt_id_pre (tcg_gen_req_mo_sem T _ s.nb_temps) (le_refl _) (fun s1 h1 =>
    calledAt_val_pre c hc (calledAt_id_pre (trace_guest_mem_before_tcg_sem T _ _ s.nb_temps) h1
      (fun s2 h2 => calledAt_plugin_prep T (by omega) (fun s3 a h3 ha3 =>
        calledAt_saved_addr T _ ha3 (fun s4 sv h4 => ?_)))))
  have hv4 : val + T.w64 ≤ s4.nb_temps := by omega
  have ha4 : a + T.aw ≤ s4.nb_temps := by omega
  have hlog := fun d N => log_instr_sem T .qemu_log_instr_load64 sv val d N (fun _ _ => rfl)
  simp only [if_pos hE]
  generalize hD : (if c &&& bnot 32 MO_BSWAP &&& MO_SIGN ≠ 0 ∧
      c &&& bnot 32 MO_BSWAP &&& MO_SIZE < MO_64
    then c &&& bnot 32 MO_BSWAP &&& bnot 32 MO_SIGN else c &&& bnot 32 MO_BSWAP) = D
  obtain ⟨d1, d2, d3, d4⟩ := ld_i64_desc_facts c hb D hD
  rw [if_pos d4]
  simp only [if_pos hsz]
  refine calledAt_id_pre (gen_rvfi_dii_set_field_sem T _ _ s4.nb_temps) (le_refl _)
    (fun s5 h5 => calledAt_sem_pre (P := fun m0 m' => m'.get64 T val = m0.get64 T val)
      (@gen_ldst_i64_ld_sem T val a s4.nb_temps D idx hidx ha4)
      h5
      (fun s6 h6 => calledAt_keep_pre (gen_rvfi_dii_set_field_sem T _ _ s4.nb_temps)
        (by omega) (fun m m' hag => hag.get64 T (by omega))
        (fun s7 h7 => calledAt_keep_pre
          (gen_rvfi_dii_set_field_const_i32_sem T _ _ s4.nb_temps)
          (by omega) (fun m m' hag => hag.get64 T (by omega))
          (fun s8 h8 => calledAt_keep_pre (plugin_gen_mem_callbacks_sem T _ _ s4.nb_temps)
            (by omega) (fun m m' hag => hag.get64 T (by omega))
            (fun s9 h9 => ?_))))
      (fun m m0 m' hag q => ?_))
  · have hv9 : val + T.w64 ≤ s9.nb_temps := by omega
    by_cases hs : c &&& MO_SIGN ≠ 0
    · simp only [if_pos hs]
      exact calledAt_here (tcg_gen_bswap16_i64_sem T hv9 hv9 (Or.inl rfl))
        (Sem.bind (tcg_gen_ext16s_i64_sem T hv9 hv9 (Or.inl rfl)) (hlog _ _)) (le_refl _)
        (fun m => rfl)
    · simp only [if_neg hs]
      exact calledAt_here (tcg_gen_bswap16_i64_sem T hv9 hv9 (Or.inl rfl))
        (Sem.bind_id (Sem.pure _) (hlog _ _)) (le_refl _) (fun m => rfl)
  · show m'.get64 T val < 2 ^ 16
    rw [q, hag.get64 T (show val + T.w64 ≤ s5.nb_temps by omega), Machine.get64_set64_self,
      Nat.mod_eq_of_lt (mem_ld_lt _ _ _ _)]
    exact (mem_ld64_swap16 m.mem (T.addr_val m a) c D hsz hb d1 d2
      (d3 (by rw [hsz]; decide))).1

/-- The 32-bit swap of a 64-bit load on a 64-bit host without memory byte swap is made
on the value an unsigned 32-bit access has delivered. -/
theorem ld_i64_swap32_called (T : TCGTarget) (s : TCGContext) (val addr idx memop c : Nat)
    (hT : T.reg64 = true) (hB : T.TCG_TARGET_HAS_MEMORY_BSWAP = false) (hidx : idx < 16)
    (hc : ∀ s, tcg_canonicalize_memop T memop true false s = (some c, s))
    (hb : c &&& MO_BSWAP ≠ 0) (hsz : c &&& MO_SIZE = MO_32)
    (hv : val + T.w64 ≤ s.nb_temps) (ha : addr + T.aw ≤ s.nb_temps) :
    CalledAt (tcg_gen_qemu_ld_i64_with_checked_addr T val addr idx memop) s
      (tcg_gen_bswap32_i64 T val val) (fun _ m' => m'.get64 T val < 2 ^ 32) := by
  have hw1 := w64_pos T
  have hE : ¬T.TCG_TARGET_HAS_MEMORY_BSWAP = true ∧ c &&& MO_BSWAP ≠ 0 := ⟨by simp [hB], hb⟩
  have hA : ¬(¬ T.reg64 = true ∧ memop &&& MO_SIZE < MO_64) := fun h => h.1 hT
  unfold tcg_gen_qemu_ld_i64_with_checked_addr
  simp only []
  rw [if_neg hA]
  refine calledAt_id_pre (tcg_gen_req_mo_sem T _ s.nb_temps) (le_refl _) (fun s1 h1 =>
    calledAt_val_pre c hc (calledAt_id_pre (trace_guest_mem_before_tcg_sem T _ _ s.nb_temps) h1
      (fun s2 h2 => calledAt_plugin_prep T (by omega) (fun s3 a h3 ha3 =>
        calledAt_saved_addr T _ ha3 (fun s4 sv h4 => ?_)))))
  have hv4 : val + T.w64 ≤ s4.nb_temps := by omega
  have ha4 : a + T.aw ≤ s4.nb_temps := by omega
  have hlog := fun d N => log_instr_sem T .qemu_log_instr_load64 sv val d N (fun _ _ => rfl)
  simp only [if_pos hE]
  generalize hD : (if c &&& bnot 32 MO_BSWAP &&& MO_SIGN ≠ 0 ∧
      c &&& bnot 32 MO_BSWAP &&& MO_SIZE < MO_64
    then c &&& bnot 32 MO_BSWAP &&& bnot 32 MO_SIGN else c &&& bnot 32 MO_BSWAP) = D
  obtain ⟨d1, d2, d3, d4⟩ := ld_i64_desc_facts c hb D hD
  rw [if_pos d4]
  have h16 : ¬ c &&& MO_SIZE = MO_16 := by rw [hsz]; decide
  simp only [if_neg h16, if_pos hsz]
  refine calledAt_id_pre (gen_rvfi_dii_set_field_sem T _ _ s4.nb_temps) (le_refl _)
    (fun s5 h5 => calledAt_sem_pre (P := fun m0 m' => m'.get64 T val = m0.get64 T val)
      (@gen_ldst_i64_ld_sem T val a s4.nb_temps D idx hidx ha4)
      h5
      (fun s6 h6 => calledAt_keep_pre (gen_rvfi_dii_set_field_sem T _ _ s4.nb_temps)
        (by omega) (fun m m' hag => hag.get64 T (by omega))
        (fun s7 h7 => calledAt_keep_pre
          (gen_rvfi_dii_set_field_const_i32_sem T _ _ s4.nb_temps)
          (by omega) (fun m m' hag => hag.get64 T (by omega))
          (fun s8 h8 => calledAt_keep_pre (plugin_gen_mem_callbacks_sem T _ _ s4.nb_temps)
            (by omega) (fun m m' hag => hag.get64 T (by omega))
            (fun s9 h9 => ?_))))
      (fun m m0 m' hag q => ?_))
  · have hv9 : val + T.w64 ≤ s9.nb_temps := by omega
    by_cases hs : c &&& MO_SIGN ≠ 0
    · simp only [if_pos hs]
      exact calledAt_here (tcg_gen_bswap32_i64_sem T hv9 hv9 (Or.inl rfl))
        (Sem.bind (tcg_gen_ext32s_i64_sem T hv9 hv9 (Or.inl rfl)) (hlog _ _)) (le_refl _)
        (fun m => rfl)
    · simp only [if_neg hs]
      exact calledAt_here (tcg_gen_bswap32_i64_sem T hv9 hv9 (Or.inl rfl))
        (Sem.bind_id (Sem.pure _) (hlog _ _)) (le_refl _) (fun m => rfl)
  · show m'.get64 T val < 2 ^ 32
    rw [q, hag.get64 T (show val + T.w64 ≤ s5.nb_temps by omega), Machine.get64_set64_self,
      Nat.mod_eq_of_lt (mem_ld_lt _ _ _ _)]
    exact (mem_ld64_swap32 m.mem (T.addr_val m a) c D hsz hb d1 d2
      (d3 (by rw [hsz]; decide))).1

/-- Canonicalization keeps the access size. -/
theorem canonical_size_eq (T : TCGTarget) (op : Nat) (is64 st : Bool) (s : TCGContext)
    (c : Nat) (hc : tcg_canonicalize_memop T op is64 st s = (some c, s)) :
    c &&& MO_SIZE = op &&& MO_SIZE := by
  obtain ⟨_, _, _, e⟩ := tcg_canonicalize_memop_some T op is64 st s s c hc
  obtain ⟨f1, f2, f3, f4, f5, f6, _, _⟩ := memop_clear_facts op
  generalize hx : (if op &&& MO_SIZE = MO_8 then op &&& bnot 32 MO_BSWAP
    else if op &&& MO_SIZE = MO_32 ∧ is64 = false then op &&& bnot 32 MO_SIGN else op) = x at e
  obtain ⟨k1, k2, k3, k4, k5, k6, _, _⟩ := memop_clear_facts x
  have hxs : x &&& MO_SIZE = op &&& MO_SIZE := by
    rw [← hx]
    split
    · exact f4
    · split
      · exact f3
      · rfl
  subst e
  dsimp only
  split
  · rw [k3, hxs]
  · exact hxs

/-- On a 32-bit host the 16-bit swap of a 64-bit load is the one of the 32-bit load into
the low word. -/
theorem ld_i64_narrow_swap_called (T : TCGTarget) (s : TCGContext)
    (val addr idx memop c : Nat) (hT : T.reg64 = false)
    (hB : T.TCG_TARGET_HAS_MEMORY_BSWAP = false) (hidx : idx < 16)
    (hc : ∀ s, tcg_canonicalize_memop T memop false false s = (some c, s))
    (hb : c &&& MO_BSWAP ≠ 0) (h16 : c &&& MO_SIZE = MO_16)
    (hv : val + T.w64 ≤ s.nb_temps) (ha : addr + T.aw ≤ s.nb_temps) :
    CalledAt (tcg_gen_qemu_ld_i64_with_checked_addr T val addr idx memop) s
      (tcg_gen_bswap16_i32 T (TCGV_LOW val) (TCGV_LOW val))
      (fun _ m' => m'.regs (TCGV_LOW val) < 2 ^ 16) := by
  have hw := w64_of_reg32 hT
  have hsz := canonical_size_eq T memop false false s c (hc s)
  have hA : ¬ T.reg64 = true ∧ memop &&& MO_SIZE < MO_64 :=
    ⟨by simp [hT], by rw [← hsz, h16]; decide⟩
  have hl : TCGV_LOW val < s.nb_temps := by
    show val < s.nb_temps
    omega
  have h := ld_i32_swap_called T s (TCGV_LOW val) addr idx memop c hB hidx hc hb h16 hl ha
  unfold tcg_gen_qemu_ld_i64_with_checked_addr
  simp only []
  rw [if_pos hA]
  by_cases hs : memop &&& MO_SIGN ≠ 0
  · rw [if_pos hs]
    exact calledAt_bind_post h (tcg_gen_sari_i32_sem (r := TCGV_HIGH val) (a := TCGV_LOW val)
      (b := 31) (by norm_num) hl) (le_refl _)
  · rw [if_neg hs]
    exact calledAt_bind_post h (tcg_gen_movi_i32_sem (TCGV_HIGH val) 0 s.nb_temps) (le_refl _)

/-- On a 32-bit host a 64-bit store below 64 bits is the 32-bit store of the low word. -/
theorem st_i64_narrow_eq (T : TCGTarget) (val addr idx memop : Nat) (inv : Bool)
    (hT : T.reg64 = false) (hsz : memop &&& MO_SIZE < MO_64) :
    tcg_gen_qemu_st_i64_with_checked_addr_cond_invalidate T val addr idx memop inv =
      tcg_gen_qemu_st_i32_with_checked_addr_cond_invalidate T (TCGV_LOW val) addr idx memop
        inv := by
  unfold tcg_gen_qemu_st_i64_with_checked_addr_cond_invalidate
  simp only []
  rw [if_pos ⟨by simp [hT], hsz⟩]

/-- A store writes no temporary of its caller. -/
theorem emitted_keeps_temps {g : Gen Unit} {n : Nat} {f : Machine → Nat → Nat}
    (h : Sem g n (fun m => { m with mem := (f m) })) (s : TCGContext) (hs : n ≤ s.nb_temps) :
    ∃ δ, emitted g s = some δ ∧ ∀ m i, i < s.nb_temps → (run δ m).regs i = m.regs i := by
  obtain ⟨δ, e, r⟩ := h.emitted s hs
  exact ⟨δ, e, fun m i hi => (r m).2 i hi⟩

/-- A 16-bit `MemOp` canonicalizes alike for a 32-bit and for a 64-bit container. -/
theorem canonical_narrow (T : TCGTarget) (memop c : Nat) (st : Bool)
    (hc : ∀ s, tcg_canonicalize_memop T memop true st s = (some c, s))
    (h16 : c &&& MO_SIZE = MO_16) (s : TCGContext) :
    tcg_canonicalize_memop T memop false st s = (some c, s) := by
  have h := hc s
  have hsz := canonical_size_eq T memop true st s c h
  have h16m : memop &&& MO_SIZE = MO_16 := by rw [← hsz]; exact h16
  have h8 : ¬ memop &&& MO_SIZE = MO_8 := by rw [h16m]; decide
  rw [tcg_canonicalize_memop_eq] at h ⊢
  by_cases hal : T.alignment_valid memop = true
  · simp only [hal, if_true, if_neg h8, if_pos h16m] at h ⊢
    exact h
  · simp [hal] at h

/-- The access of a byte-swapped load below 64 bits on a host without memory byte swap
is unsigned and in host order. -/
theorem ld_i32_access_unsigned (T : TCGTarget) (s : TCGContext) (val addr idx memop c : Nat)
    (hB : T.TCG_TARGET_HAS_MEMORY_BSWAP = false) (hidx : idx < 16)
    (hc : ∀ s, tcg_canonicalize_memop T memop false false s = (some c, s))
    (hb : c &&& MO_BSWAP ≠ 0) (hv : val < s.nb_temps) (ha : addr + T.aw ≤ s.nb_temps) :
    ∃ δ op, emitted (tcg_gen_qemu_ld_i32_with_checked_addr T val addr idx memop) s = some δ ∧
      mem_accesses δ = [op] ∧ op.memop &&& MO_SIGN = 0 ∧ op.memop &&& MO_BSWAP = 0 := by
  obtain ⟨hc8, hc64, hc32⟩ := canonical_ld_i32_facts T memop c _ (hc s)
  have hsz := canonical_swap_size c hb hc8 hc64
  have hE : ¬T.TCG_TARGET_HAS_MEMORY_BSWAP = true ∧ c &&& MO_BSWAP ≠ 0 := ⟨by simp [hB], hb⟩
  obtain ⟨δ, k, e, r⟩ := (@tcg_gen_qemu_ld_i32_sem T val addr _ idx memop c
    hidx hc hv ha).2 s (le_refl _)
  obtain ⟨op, ho, h1, h2, h3⟩ :=
    accesses_emitted (tcg_gen_qemu_ld_i32_accesses T val addr idx memop c hidx hc) s δ k e
  rw [if_pos hE] at h3
  obtain ⟨d1, d2, d3, d4⟩ := ld_i32_desc_facts c hb hc32 hsz _ h3.symm
  exact ⟨δ, op, emitted_of_eq e, ho, d3, d2⟩

theorem ld_i64_access_unsigned (T : TCGTarget) (s : TCGContext) (val addr idx memop c : Nat)
    (hB : T.TCG_TARGET_HAS_MEMORY_BSWAP = false) (hidx : idx < 16)
    (hc : ∀ s, tcg_canonicalize_memop T memop true false s = (some c, s))
    (hb : c &&& MO_BSWAP ≠ 0) (h64 : c &&& MO_SIZE ≠ MO_64)
    (hv : val + T.w64 ≤ s.nb_temps) (ha : addr + T.aw ≤ s.nb_temps) :
    ∃ δ op, emitted (tcg_gen_qemu_ld_i64_with_checked_addr T val addr idx memop) s = some δ ∧
      mem_accesses δ = [op] ∧ op.memop &&& MO_SIGN = 0 ∧ op.memop &&& MO_BSWAP = 0 := by
  obtain ⟨δ, k, e, r⟩ := (@tcg_gen_qemu_ld_i64_sem T val addr _ idx memop c
    hidx hc hv ha).2 s (le_refl _)
  obtain ⟨op, ho, h1, h2, h3, h4, h5⟩ :=
    accesses_emitted (tcg_gen_qemu_ld_i64_accesses T val addr idx memop c hidx hc hB hb) s δ k e
  exact ⟨δ, op, emitted_of_eq e, ho, h5 h64, h4⟩

/-! # The claims -/

/-- C1: for both widths, extracting the field `(ofs, len)` from the value computed
by a deposit of `value` into `base` at `(ofs, len)` gives `value mod 2^len`, for
every host capability assignment `T` and, at width 64, on both host word sizes
(`T.reg64`).  The two routines are emitted one after the other from any context
`s` and run on any machine `m`. -/
theorem C1_extract_of_deposit (T : TCGTarget) (s : TCGContext) (m : Machine)
    (base value dep ext ofs len : Nat) (hl : 0 < len) :
    (base < s.nb_temps → value < s.nb_temps → dep < s.nb_temps → ext < s.nb_temps →
      ofs < 32 → ofs + len ≤ 32 →
      ∃ δ, emitted (do
          tcg_gen_deposit_i32 T dep base value ofs len
          tcg_gen_extract_i32 T ext dep ofs len) s = some δ ∧
        (run δ m).regs ext = (m.regs value % 2 ^ 32) % 2 ^ len) ∧
    (base + T.w64 ≤ s.nb_temps → value + T.w64 ≤ s.nb_temps → dep + T.w64 ≤ s.nb_temps →
      ext + T.w64 ≤ s.nb_temps → T.sep dep base → T.sep dep value → T.sep ext dep →
      ofs < 64 → ofs + len ≤ 64 →
      ∃ δ, emitted (do
          tcg_gen_deposit_i64 T dep base value ofs len
          tcg_gen_extract_i64 T ext dep ofs len) s = some δ ∧
        (run δ m).get64 T ext = m.get64 T value % 2 ^ len) := by
  constructor
  · intro hb hv hd he ho hol
    obtain ⟨δ, e, r⟩ := (Sem.bind (k := fun _ => tcg_gen_extract_i32 T ext dep ofs len)
      (tcg_gen_deposit_i32_sem T hb hv hd ho hl hol)
      (tcg_gen_extract_i32_sem T (r := ext) hd he ho hl hol)).emitted s (le_refl _)
    refine ⟨δ, e, ?_⟩
    rw [(r m).2 ext he]
    simp only [Function.comp, Machine.set_regs_self]
    rw [extract_deposit 32 _ _ _ _ hol, mod_mod_pow_le _ _ _ (by omega)]
  · intro hb hv hd he h1 h2 h3 ho hol
    obtain ⟨δ, e, r⟩ := (Sem.bind (k := fun _ => tcg_gen_extract_i64 T ext dep ofs len)
      (tcg_gen_deposit_i64_sem T hb hv hd h1 h2 ho hl hol)
      (tcg_gen_extract_i64_sem T (r := ext) hd he h3 ho hl hol)).emitted s (le_refl _)
    refine ⟨δ, e, ?_⟩
    rw [(r m).get64 T he]
    simp only [Function.comp, Machine.get64_set64_self]
    rw [extract_deposit 64 _ _ _ _ hol]
    exact Nat.mod_eq_of_lt (lt_of_le_of_lt (Nat.mod_le _ _) (Machine.get64_lt T m value))

/-- Witness for C1: the round trip of the field `(8, 8)` on a host without any
optional op, at width 32 and, on a 32-bit host, at width 64. -/
theorem C1_extract_of_deposit_witness :
    (∃ δ, emitted (do
        tcg_gen_deposit_i32 (TCGTarget.plain true) 2 0 1 8 8
        tcg_gen_extract_i32 (TCGTarget.plain true) 3 2 8 8) (TCGContext.fresh 4) = some δ ∧
      (run δ (Machine.ofList [0x12345678, 0xAB])).regs 3 =
        ((Machine.ofList [0x12345678, 0xAB]).regs 1 % 2 ^ 32) % 2 ^ 8) ∧
    (∃ δ, emitted (do
        tcg_gen_deposit_i64 (TCGTarget.plain false) 4 0 2 24 16
        tcg_gen_extract_i64 (TCGTarget.plain false) 6 4 24 16) (TCGContext.fresh 8) = some δ ∧
      (run δ (Machine.ofList [1, 2, 0xABCDE, 4])).get64 (TCGTarget.plain false) 6 =
        (Machine.ofList [1, 2, 0xABCDE, 4]).get64 (TCGTarget.plain false) 2 % 2 ^ 16) :=
  ⟨(C1_extract_of_deposit (TCGTarget.plain true) (TCGContext.fresh 4)
      (Machine.ofList [0x12345678, 0xAB]) 0 1 2 3 8 8 (by decide)).1
      (by decide) (by decide) (by decide) (by decide) (by decide) (by decide),
   (C1_extract_of_deposit (TCGTarget.plain false) (TCGContext.fresh 8)
      (Machine.ofList [1, 2, 0xABCDE, 4]) 0 2 4 6 24 16 (by decide)).2
      (by decide) (by decide) (by decide) (by decide) (by decide) (by decide) (by decide)
      (by decide) (by decide)⟩

/-- C2: for both widths and on every lowering path (every capability assignment
`T`, both host word sizes), the value computed by the deposit routine is
`(base AND NOT (mask << ofs)) OR ((value AND mask) << ofs)` with
`mask = 2^len - 1`; every bit of `base` outside `[ofs, ofs+len)` is unchanged;
and depositing `0xAB` into `0x12345678` at `(8, 8)` gives `0x1234AB78` at width 32. -/
theorem C2_deposit_value (T : TCGTarget) (s : TCGContext) (m : Machine)
    (base value dep ofs len : Nat) (hl : 0 < len) :
    (base < s.nb_temps → value < s.nb_temps → dep < s.nb_temps → ofs < 32 → ofs + len ≤ 32 →
      ∃ δ, emitted (tcg_gen_deposit_i32 T dep base value ofs len) s = some δ ∧
        (run δ m).regs dep =
          ((m.regs base % 2 ^ 32) &&& bnot 32 ((2 ^ len - 1) <<< ofs)) |||
            (((m.regs value % 2 ^ 32) &&& (2 ^ len - 1)) <<< ofs) ∧
        (∀ i, i < 32 → i < ofs ∨ ofs + len ≤ i →
          ((run δ m).regs dep).testBit i = (m.regs base).testBit i) ∧
        (m.regs base = 0x12345678 → m.regs value = 0xAB → ofs = 8 → len = 8 →
          (run δ m).regs dep = 0x1234AB78)) ∧
    (base + T.w64 ≤ s.nb_temps → value + T.w64 ≤ s.nb_temps → dep + T.w64 ≤ s.nb_temps →
      T.sep dep base → T.sep dep value → ofs < 64 → ofs + len ≤ 64 →
      ∃ δ, emitted (tcg_gen_deposit_i64 T dep base value ofs len) s = some δ ∧
        (run δ m).get64 T dep =
          (m.get64 T base &&& bnot 64 ((2 ^ len - 1) <<< ofs)) |||
            ((m.get64 T value &&& (2 ^ len - 1)) <<< ofs) ∧
        (∀ i, i < 64 → i < ofs ∨ ofs + len ≤ i →
          ((run δ m).get64 T dep).testBit i = (m.get64 T base).testBit i)) := by
  constructor
  · intro hb hv hd ho hol
    obtain ⟨δ, e, r⟩ := (tcg_gen_deposit_i32_sem T hb hv hd ho hl hol).emitted s (le_refl _)
    have hval : (run δ m).regs dep = deposit 32 (m.regs base) (m.regs value) ofs len := by
      rw [(r m).2 dep hd]
      simp only [Machine.set_regs_self]
    refine ⟨δ, e, ?_, ?_, ?_⟩
    · rw [hval, deposit_formula 32 _ _ _ _ hol]
    · intro i hi hio
      rw [hval, deposit_outside 32 _ _ _ _ i hi hio]
    · intro e1 e2 e3 e4
      rw [hval, e1, e2, e3, e4]
      exact deposit_example
  · intro hb hv hd h1 h2 ho hol
    obtain ⟨δ, e, r⟩ := (tcg_gen_deposit_i64_sem T hb hv hd h1 h2 ho hl hol).emitted s
      (le_refl _)
    have hval : (run δ m).get64 T dep =
        deposit 64 (m.get64 T base) (m.get64 T value) ofs len := by
      rw [(r m).get64 T hd]
      simp only [Machine.get64_set64_self]
      exact Nat.mod_eq_of_lt (deposit_lt _ _ _ _ _)
    refine ⟨δ, e, ?_, ?_⟩
    · rw [hval, deposit_formula 64 _ _ _ _ hol, Nat.mod_eq_of_lt (Machine.get64_lt T m base),
        Nat.mod_eq_of_lt (Machine.get64_lt T m value)]
    · intro i hi hio
      rw [hval, deposit_outside 64 _ _ _ _ i hi hio]

/-- Witness for C2: the scenario `deposit(0x12345678, 0xAB, 8, 8)` on a host
without any optional op — the mask-shift-or fallback — gives `0x1234AB78`. -/
theorem C2_deposit_value_witness :
    ∃ δ, emitted (tcg_gen_deposit_i32 (TCGTarget.plain true) 2 0 1 8 8)
        (TCGContext.fresh 3) = some δ ∧
      (run δ (Machine.ofList [0x12345678, 0xAB])).regs 2 = 0x1234AB78 :=
  match (C2_deposit_value (TCGTarget.plain true) (TCGContext.fresh 3)
      (Machine.ofList [0x12345678, 0xAB]) 0 1 2 8 8 (by decide)).1
      (by decide) (by decide) (by decide) (by decide) (by decide) with
  | ⟨δ, e, _, _, h⟩ => ⟨δ, e, h rfl rfl rfl rfl⟩

/-- C3: on every lowering path (every capability assignment `T`), the value
computed by `tcg_gen_sextract_i32` is the `len`-bit field of `x` at bit `ofs`
sign-extended to 32 bits: a 32-bit pattern whose bit `i` is bit `ofs + i` of `x`
inside the field and the field's top bit above it; and
`sextract(0xFFFFFF80, 0, 8)` is `0xFFFFFF80`, i.e. -128. -/
theorem C3_sextract_i32_value (T : TCGTarget) (s : TCGContext) (m : Machine)
    (arg ret ofs len : Nat) (hl : 0 < len) (ho : ofs < 32) (hol : ofs + len ≤ 32)
    (ha : arg < s.nb_temps) (hr : ret < s.nb_temps) :
    ∃ δ, emitted (tcg_gen_sextract_i32 T ret arg ofs len) s = some δ ∧
      (run δ m).regs ret = sext 32 len ((m.regs arg % 2 ^ 32) >>> ofs) ∧
      (run δ m).regs ret < 2 ^ 32 ∧
      (∀ i, i < 32 →
        ((run δ m).regs ret).testBit i = (m.regs arg).testBit (ofs + min i (len - 1))) ∧
      (m.regs arg = 0xFFFFFF80 → ofs = 0 → len = 8 →
        (run δ m).regs ret = 0xFFFFFF80 ∧ toInt 32 ((run δ m).regs ret) = -128) := by
  obtain ⟨δ, e, r⟩ := (tcg_gen_sextract_i32_sem T ha hr ho hl hol).emitted s (le_refl _)
  have hval : (run δ m).regs ret = sext 32 len ((m.regs arg % 2 ^ 32) >>> ofs) := by
    rw [(r m).2 ret hr]
    simp only [Machine.set_regs_self]
  refine ⟨δ, e, hval, ?_, ?_, ?_⟩
  · rw [hval]
    exact sext_lt 32 len _ (by omega)
  · intro i hi
    rw [hval, testBit_sext_field 32 _ _ _ i hl hol hi]
  · intro e1 e2 e3
    rw [hval, e1, e2, e3]
    exact ⟨sextract_example.1, by rw [sextract_example.1]; exact sextract_example.2⟩

/-- Witness for C3: `sextract(0xFFFFFF80, 0, 8)` on a host without any optional op. -/
theorem C3_sextract_i32_value_witness :
    ∃ δ, emitted (tcg_gen_sextract_i32 (TCGTarget.plain true) 1 0 0 8)
        (TCGContext.fresh 2) = some δ ∧
      (run δ (Machine.ofList [0xFFFFFF80])).regs 1 = 0xFFFFFF80 ∧
      toInt 32 ((run δ (Machine.ofList [0xFFFFFF80])).regs 1) = -128 :=
  match C3_sextract_i32_value (TCGTarget.plain true) (TCGContext.fresh 2)
      (Machine.ofList [0xFFFFFF80]) 0 1 0 8 (by decide) (by decide) (by decide) (by decide)
      (by decide) with
  | ⟨δ, e, _, _, _, h⟩ => ⟨δ, e, h rfl rfl rfl⟩

/-- C7: for both widths, every `x`, every constant `n` below the width, every
capability assignment (native rotate or not) and both host word sizes: rotating
left by `n` the value computed by rotating `x` right by `n` gives `x` back. -/
theorem C7_rotl_of_rotr (T : TCGTarget) (s : TCGContext) (m : Machine)
    (x t ret n : Nat) :
    (n < 32 → x < s.nb_temps → t < s.nb_temps → ret < s.nb_temps →
      ∃ δ, emitted (do
          tcg_gen_rotri_i32 T t x n
          tcg_gen_rotli_i32 T ret t n) s = some δ ∧
        (run δ m).regs ret = m.regs x % 2 ^ 32) ∧
    (n < 64 → x + T.w64 ≤ s.nb_temps → t + T.w64 ≤ s.nb_temps → ret + T.w64 ≤ s.nb_temps →
      T.sep t x → T.sep ret t →
      ∃ δ, emitted (do
          tcg_gen_rotri_i64 T t x n
          tcg_gen_rotli_i64 T ret t n) s = some δ ∧
        (run δ m).get64 T ret = m.get64 T x) := by
  constructor
  · intro hn hx ht hr
    obtain ⟨δ, e, r⟩ := (Sem.bind (k := fun _ => tcg_gen_rotli_i32 T ret t n)
      (tcg_gen_rotri_i32_sem T (r := t) hn hx)
      (tcg_gen_rotli_i32_sem T (r := ret) hn ht)).emitted s (le_refl _)
    refine ⟨δ, e, ?_⟩
    rw [(r m).2 ret hr]
    simp only [Function.comp, Machine.set_regs_self]
    exact rotl_rotr 32 _ n hn
  · intro hn hx ht hr h1 h2
    obtain ⟨δ, e, r⟩ := (Sem.bind (k := fun _ => tcg_gen_rotli_i64 T ret t n)
      (tcg_gen_rotri_i64_sem T (r := t) hn hx ht h1)
      (tcg_gen_rotli_i64_sem T (r := ret) hn ht hr h2)).emitted s (le_refl _)
    refine ⟨δ, e, ?_⟩
    rw [(r m).get64 T hr]
    simp only [Function.comp, Machine.get64_set64_self]
    rw [Nat.mod_eq_of_lt (rotr_lt 64 _ _), rotl_rotr 64 _ n hn,
      Nat.mod_eq_of_lt (Machine.get64_lt T m x), Nat.mod_eq_of_lt (Machine.get64_lt T m x)]

/-- Witness for C7: rotating `0xDEADBEEF` right then left by 5 at width 32, and a
64-bit value right then left by 40 on a 32-bit host, without a native rotate. -/
theorem C7_rotl_of_rotr_witness :
    (∃ δ, emitted (do
        tcg_gen_rotri_i32 (TCGTarget.plain true) 1 0 5
        tcg_gen_rotli_i32 (TCGTarget.plain true) 2 1 5) (TCGContext.fresh 3) = some δ ∧
      (run δ (Machine.ofList [0xDEADBEEF])).regs 2 =
        (Machine.ofList [0xDEADBEEF]).regs 0 % 2 ^ 32) ∧
    (∃ δ, emitted (do
        tcg_gen_rotri_i64 (TCGTarget.plain false) 2 0 40
        tcg_gen_rotli_i64 (TCGTarget.plain false) 4 2 40) (TCGContext.fresh 6) = some δ ∧
      (run δ (Machine.ofList [0xDEADBEEF, 0x1234])).get64 (TCGTarget.plain false) 4 =
        (Machine.ofList [0xDEADBEEF, 0x1234]).get64 (TCGTarget.plain false) 0) :=
  ⟨(C7_rotl_of_rotr (TCGTarget.plain true) (TCGContext.fresh 3)
      (Machine.ofList [0xDEADBEEF]) 0 1 2 5).1 (by decide) (by decide) (by decide) (by decide),
   (C7_rotl_of_rotr (TCGTarget.plain false) (TCGContext.fresh 6)
      (Machine.ofList [0xDEADBEEF, 0x1234]) 0 2 4 40).2 (by decide) (by decide) (by decide)
      (by decide) (by decide) (by decide)⟩

/-- C8 (as stated, refuted): on a host without a native 16-bit swap, applying
`tcg_gen_bswap16_i32` twice to `0x10000` yields `1`, not `0x10000`. -/
theorem C8_bswap_twice_counterexample :
    ∃ δ, emitted (do
        tcg_gen_bswap16_i32 (TCGTarget.plain true) 1 0
        tcg_gen_bswap16_i32 (TCGTarget.plain true) 2 1) (TCGContext.fresh 3) = some δ ∧
      (run δ (Machine.ofList [0x10000])).regs 2 = 1 ∧
      (run δ (Machine.ofList [0x10000])).regs 2 ≠ (Machine.ofList [0x10000]).regs 0 :=
  ⟨_, rfl, by decide, by decide⟩

/-- C8 (amended): applying a byte-swap lowering twice yields `x` on every path
(native or synthesized, both host word sizes) for `tcg_gen_bswap32_i32` and
`tcg_gen_bswap64_i64` on every input, and for `tcg_gen_bswap16_i32`,
`tcg_gen_bswap16_i64` and `tcg_gen_bswap32_i64` on inputs whose bytes above the
swap width are zero. -/
theorem C8_bswap_twice (T : TCGTarget) (s : TCGContext) (m : Machine) (x t ret : Nat) :
    (x < s.nb_temps → t < s.nb_temps → ret < s.nb_temps →
      (m.regs x < 2 ^ 16 →
        ∃ δ, emitted (do
            tcg_gen_bswap16_i32 T t x
            tcg_gen_bswap16_i32 T ret t) s = some δ ∧
          (run δ m).regs ret = m.regs x) ∧
      (∃ δ, emitted (do
          tcg_gen_bswap32_i32 T t x
          tcg_gen_bswap32_i32 T ret t) s = some δ ∧
        (run δ m).regs ret = m.regs x % 2 ^ 32)) ∧
    (x + T.w64 ≤ s.nb_temps → t + T.w64 ≤ s.nb_temps → ret + T.w64 ≤ s.nb_temps →
      T.sep t x → T.sep ret t →
      (m.get64 T x < 2 ^ 16 →
        ∃ δ, emitted (do
            tcg_gen_bswap16_i64 T t x
            tcg_gen_bswap16_i64 T ret t) s = some δ ∧
          (run δ m).get64 T ret = m.get64 T x) ∧
      (m.get64 T x < 2 ^ 32 →
        ∃ δ, emitted (do
            tcg_gen_bswap32_i64 T t x
            tcg_gen_bswap32_i64 T ret t) s = some δ ∧
          (run δ m).get64 T ret = m.get64 T x) ∧
      (∃ δ, emitted (do
          tcg_gen_bswap64_i64 T t x
          tcg_gen_bswap64_i64 T ret t) s = some δ ∧
        (run δ m).get64 T ret = m.get64 T x)) := by
  constructor
  · intro hx ht hr
    constructor
    · intro hsmall
      obtain ⟨δ, e, r⟩ := (Sem.bind (k := fun _ => tcg_gen_bswap16_i32 T ret t)
        (tcg_gen_bswap16_i32_sem T (r := t) hx ht)
        (tcg_gen_bswap16_i32_sem T (r := ret) ht hr)).emitted s (le_refl _)
      refine ⟨δ, e, ?_⟩
      rw [(r m).2 ret hr]
      simp only [Function.comp, Machine.set_regs_self]
      rw [bswap16_path32 _ (m.regs x) hsmall, bswap16_path32 _ _ (bswap16_lt _),
        bswap16_bswap16, Nat.mod_eq_of_lt hsmall]
    · obtain ⟨δ, e, r⟩ := (Sem.bind (k := fun _ => tcg_gen_bswap32_i32 T ret t)
        (tcg_gen_bswap32_i32_sem T (r := t) hx ht)
        (tcg_gen_bswap32_i32_sem T (r := ret) ht hr)).emitted s (le_refl _)
      refine ⟨δ, e, ?_⟩
      rw [(r m).2 ret hr]
      simp only [Function.comp, Machine.set_regs_self]
      exact bswap32_bswap32 _
  · intro hx ht hr h1 h2
    refine ⟨?_, ?_, ?_⟩
    · intro hsmall
      obtain ⟨δ, e, r⟩ := (Sem.bind (k := fun _ => tcg_gen_bswap16_i64 T ret t)
        (tcg_gen_bswap16_i64_sem T (r := t) hx ht h1)
        (tcg_gen_bswap16_i64_sem T (r := ret) ht hr h2)).emitted s (le_refl _)
      refine ⟨δ, e, ?_⟩
      rw [(r m).get64 T hr]
      simp only [Function.comp, Machine.get64_set64_self]
      rw [bswap16_path64 _ _ _ (m.get64 T x) hsmall,
        Nat.mod_eq_of_lt (lt_trans (bswap16_lt (m.get64 T x)) (by norm_num)),
        bswap16_path64 _ _ _ _ (bswap16_lt _), bswap16_bswap16, Nat.mod_eq_of_lt hsmall,
        Nat.mod_eq_of_lt (lt_trans hsmall (by norm_num))]
    · intro hsmall
      obtain ⟨δ, e, r⟩ := (Sem.bind (k := fun _ => tcg_gen_bswap32_i64 T ret t)
        (tcg_gen_bswap32_i64_sem T (r := t) hx ht h1)
        (tcg_gen_bswap32_i64_sem T (r := ret) ht hr h2)).emitted s (le_refl _)
      refine ⟨δ, e, ?_⟩
      rw [(r m).get64 T hr]
      simp only [Function.comp, Machine.get64_set64_self]
      rw [Nat.mod_eq_of_lt (lt_trans (bswap32_lt (m.get64 T x)) (by norm_num)),
        bswap32_bswap32, Nat.mod_eq_of_lt hsmall,
        Nat.mod_eq_of_lt (lt_trans hsmall (by norm_num))]
    · obtain ⟨δ, e, r⟩ := (Sem.bind (k := fun _ => tcg_gen_bswap64_i64 T ret t)
        (tcg_gen_bswap64_i64_sem T (r := t) hx ht h1)
        (tcg_gen_bswap64_i64_sem T (r := ret) ht hr h2)).emitted s (le_refl _)
      refine ⟨δ, e, ?_⟩
      rw [(r m).get64 T hr]
      simp only [Function.comp, Machine.get64_set64_self]
      rw [Nat.mod_eq_of_lt (bswap64_lt (m.get64 T x)), bswap64_bswap64,
        Nat.mod_eq_of_lt (Machine.get64_lt T m x), Nat.mod_eq_of_lt (Machine.get64_lt T m x)]

/-- Witness for C8: the synthesized 16-bit swap applied twice to `0xBEEF` at
width 32, and the synthesized 64-bit swap applied twice on a 64-bit host. -/
theorem C8_bswap_twice_witness :
    (∃ δ, emitted (do
        tcg_gen_bswap16_i32 (TCGTarget.plain true) 1 0
        tcg_gen_bswap16_i32 (TCGTarget.plain true) 2 1) (TCGContext.fresh 3) = some δ ∧
      (run δ (Machine.ofList [0xBEEF])).regs 2 = (Machine.ofList [0xBEEF]).regs 0) ∧
    (∃ δ, emitted (do
        tcg_gen_bswap64_i64 (TCGTarget.plain true) 1 0
        tcg_gen_bswap64_i64 (TCGTarget.plain true) 2 1) (TCGContext.fresh 3) = some δ ∧
      (run δ (Machine.ofList [0x0123456789ABCDEF])).get64 (TCGTarget.plain true) 2 =
        (Machine.ofList [0x0123456789ABCDEF]).get64 (TCGTarget.plain true) 0) :=
  ⟨((C8_bswap_twice (TCGTarget.plain true) (TCGContext.fresh 3) (Machine.ofList [0xBEEF])
      0 1 2).1 (by decide) (by decide) (by decide)).1 (by decide),
   ((C8_bswap_twice (TCGTarget.plain true) (TCGContext.fresh 3)
      (Machine.ofList [0x0123456789ABCDEF]) 0 1 2).2 (by decide) (by decide) (by decide)
      (by decide) (by decide)).2.2⟩

/-- C9 (as stated, refuted): on a 32-bit host `tcg_gen_deposit_i64` with
`ofs = 0`, `len = 64` appends two ops, a low-word and a high-word move, not
exactly one move. -/
theorem C9_full_deposit_counterexample :
    emitted (tcg_gen_deposit_i64 (TCGTarget.plain false) 4 0 2 0 64) (TCGContext.fresh 6) =
      some [⟨.mov_i32, [4, 2]⟩, ⟨.mov_i32, [5, 3]⟩] ∧
    [(⟨.mov_i32, [4, 2]⟩ : TCGOp), ⟨.mov_i32, [5, 3]⟩].length ≠ 1 :=
  ⟨by rw [deposit_i64_full_emitted]; rfl, by decide⟩

/-- C9 (amended): with `ofs = 0` and `len = W` the deposit routine appends
exactly the ops of a move of `value` into the destination — one move op at
`W = 32` and at `W = 64` on a 64-bit host, a low-word and a high-word move at
`W = 64` on a 32-bit host — whatever the capability flags and whatever the base;
so the result equals `value` for every two bases `b1`, `b2`. -/
theorem C9_full_deposit_is_move (T : TCGTarget) (s : TCGContext) (m : Machine)
    (b1 b2 value ret : Nat) (h : T.sep ret value) :
    emitted (tcg_gen_deposit_i32 T ret b1 value 0 32) s = some [⟨.mov_i32, [ret, value]⟩] ∧
    emitted (tcg_gen_deposit_i32 T ret b2 value 0 32) s = some [⟨.mov_i32, [ret, value]⟩] ∧
    (run [⟨.mov_i32, [ret, value]⟩] m).regs ret = m.regs value % 2 ^ 32 ∧
    emitted (tcg_gen_deposit_i64 T ret b1 value 0 64) s = some (mov_i64_ops T ret value) ∧
    emitted (tcg_gen_deposit_i64 T ret b2 value 0 64) s = some (mov_i64_ops T ret value) ∧
    (mov_i64_ops T ret value).length = (if T.reg64 then 1 else 2) ∧
    (run (mov_i64_ops T ret value) m).get64 T ret = m.get64 T value := by
  refine ⟨deposit_i32_full_emitted T s ret b1 value, deposit_i32_full_emitted T s ret b2 value,
    ?_, deposit_i64_full_emitted T s ret b1 value, deposit_i64_full_emitted T s ret b2 value,
    ?_, mov_i64_ops_run T m ret value h⟩
  · have e : run [⟨.mov_i32, [ret, value]⟩] m = m.set ret (m.regs value % 2 ^ 32) := rfl
    rw [e, Machine.set_regs_self]
  · unfold mov_i64_ops
    split <;> rfl

/-- Witness for C9: a full-width deposit on a 64-bit host is the single move op. -/
theorem C9_full_deposit_is_move_witness :
    emitted (tcg_gen_deposit_i64 (TCGTarget.plain true) 2 0 1 0 64) (TCGContext.fresh 3) =
      some (mov_i64_ops (TCGTarget.plain true) 2 1) ∧
    (run (mov_i64_ops (TCGTarget.plain true) 2 1) (Machine.ofList [7, 9])).get64
      (TCGTarget.plain true) 2 = (Machine.ofList [7, 9]).get64 (TCGTarget.plain true) 1 :=
  match C9_full_deposit_is_move (TCGTarget.plain true) (TCGContext.fresh 3)
      (Machine.ofList [7, 9]) 0 0 1 2 (by decide) with
  | ⟨_, _, _, h1, _, _, h2⟩ => ⟨h1, h2⟩

/-- C20: on a 32-bit host, for every 64-bit value `x = hi:lo` and every constant
`c < 64`, the (low, high) pair produced by `tcg_gen_shifti_i64` is the 64-bit
logical left shift (`right = false`), logical right shift (`right = true`,
`arith = false`) or arithmetic right shift (`right = true`, `arith = true`) of `x`
by `c`, in every regime of `c` and with or without native `extract2_i32` (every
capability assignment `T`). -/
theorem C20_shifti_i64_value (T : TCGTarget) (hT : T.reg64 = false) (s : TCGContext)
    (m : Machine) (arg ret c : Nat) (right arith : Bool) (hc : c < 64)
    (ha : arg + 2 ≤ s.nb_temps) (hr : ret + 2 ≤ s.nb_temps)
    (hsep : ret = arg ∨ ret + 2 ≤ arg ∨ arg + 2 ≤ ret) :
    ∃ δ, emitted (tcg_gen_shifti_i64 T ret arg c right arith) s = some δ ∧
      pair64 ((run δ m).regs (TCGV_LOW ret)) ((run δ m).regs (TCGV_HIGH ret)) =
        shift64 right arith (pair64 (m.regs (TCGV_LOW arg)) (m.regs (TCGV_HIGH arg))) c ∧
      (right = false → shift64 right arith
          (pair64 (m.regs (TCGV_LOW arg)) (m.regs (TCGV_HIGH arg))) c =
        (pair64 (m.regs (TCGV_LOW arg)) (m.regs (TCGV_HIGH arg)) * 2 ^ c) % 2 ^ 64) ∧
      (right = true → arith = false → shift64 right arith
          (pair64 (m.regs (TCGV_LOW arg)) (m.regs (TCGV_HIGH arg))) c =
        pair64 (m.regs (TCGV_LOW arg)) (m.regs (TCGV_HIGH arg)) / 2 ^ c) ∧
      (right = true → arith = true → ∀ i, i < 64 →
        (shift64 right arith (pair64 (m.regs (TCGV_LOW arg)) (m.regs (TCGV_HIGH arg)))
            c).testBit i =
          (pair64 (m.regs (TCGV_LOW arg)) (m.regs (TCGV_HIGH arg))).testBit
            (min (c + i) 63)) := by
  obtain ⟨δ, e, r⟩ := (tcg_gen_shifti_i64_sem T hT right arith hc ha hr hsep).emitted s
    (le_refl _)
  refine ⟨δ, e, ?_, ?_, ?_, ?_⟩
  · rw [Machine.get64_pair hT, Machine.get64_pair hT,
      (r m).get64 T (show ret + T.w64 ≤ s.nb_temps by rw [w64_of_reg32 hT]; exact hr),
      Machine.get64_set64_self]
    exact Nat.mod_eq_of_lt (shift64_lt _ _ _ _ (Machine.get64_lt T m arg))
  · intro h1
    subst h1
    simp only [shift64, Bool.false_eq_true, if_false, Nat.shiftLeft_eq]
  · intro h1 h2
    subst h1 h2
    simp only [shift64, Bool.false_eq_true, if_false, if_true, Nat.shiftRight_eq_div_pow]
  · intro h1 h2 i hi
    subst h1 h2
    simp only [shift64, if_true]
    exact testBit_sar64 _ c i hc hi

/-- Witness for C20: the arithmetic right shift by 4 of `0x8000000000000010`. -/
theorem C20_shifti_i64_value_witness :
    ∃ δ, emitted (tcg_gen_shifti_i64 (TCGTarget.plain false) 2 0 4 true true)
        (TCGContext.fresh 4) = some δ ∧
      pair64 ((run δ (Machine.ofList [0x10, 0x80000000])).regs (TCGV_LOW 2))
          ((run δ (Machine.ofList [0x10, 0x80000000])).regs (TCGV_HIGH 2)) =
        shift64 true true (pair64 ((Machine.ofList [0x10, 0x80000000]).regs (TCGV_LOW 0))
          ((Machine.ofList [0x10, 0x80000000]).regs (TCGV_HIGH 0))) 4 :=
  match C20_shifti_i64_value (TCGTarget.plain false) rfl (TCGContext.fresh 4)
      (Machine.ofList [0x10, 0x80000000]) 0 2 4 true true (by decide) (by decide) (by decide)
      (by decide) with
  | ⟨δ, e, h, _⟩ => ⟨δ, e, h⟩

/-- C10: whenever `tcg_canonicalize_memop(op, is64, st)` returns a value `r`: a
store (`st`) carries no `MO_SIGN` bit; a byte-sized access carries no `MO_BSWAP`
bit; a 32-bit access into a 32-bit container (`!is64`) carries no `MO_SIGN` bit;
and the size field of `r` is never `MO_64` when `!is64`. -/
theorem C10_canonical_memop (T : TCGTarget) (op r : Nat) (is64 st : Bool)
    (s s' : TCGContext) (h : tcg_canonicalize_memop T op is64 st s = (some r, s')) :
    (st = true → r &&& MO_SIGN = 0) ∧
    (op &&& MO_SIZE = MO_8 → r &&& MO_BSWAP = 0) ∧
    (is64 = false → op &&& MO_SIZE = MO_32 → r &&& MO_SIGN = 0) ∧
    (is64 = false → r &&& MO_SIZE ≠ MO_64) := by
  obtain ⟨-, -, h64, hr⟩ := tcg_canonicalize_memop_some T op is64 st s s' r h
  have f := memop_clear_facts
  refine ⟨?_, ?_, ?_, ?_⟩
  · intro hst
    rw [hr]
    simp only [hst, if_true]
    exact (f _).1
  · intro h8
    rw [hr]
    simp only [h8, if_true]
    split
    · rw [(f _).2.2.2.2.1]
      exact (f _).2.1
    · exact (f _).2.1
  · intro hi h32
    rw [hr]
    have h8 : ¬ op &&& MO_SIZE = MO_8 := by rw [h32]; decide
    simp only [h8, h32, hi, and_self, if_true, if_false]
    split
    · exact (f _).1
    · exact (f _).1
  · intro hi
    have hsz : r &&& MO_SIZE = op &&& MO_SIZE := by
      rw [hr]
      simp only []
      split <;> split <;> (try split) <;>
        simp only [(f _).2.2.1, (f _).2.2.2.1]
    rw [hsz]
    exact h64 hi

/-- Witness for C10: a signed big-endian-swapped byte store `MO_8 | MO_SIGN | MO_BSWAP`
is returned as plain `MO_8`. -/
theorem C10_canonical_memop_witness :
    (true = true → 0 &&& MO_SIGN = 0) ∧
    (12 &&& MO_SIZE = MO_8 → 0 &&& MO_BSWAP = 0) ∧
    (false = false → 12 &&& MO_SIZE = MO_32 → 0 &&& MO_SIGN = 0) ∧
    (false = false → 0 &&& MO_SIZE ≠ MO_64) :=
  C10_canonical_memop (TCGTarget.plain true) 12 0 false true (TCGContext.fresh 0)
    (TCGContext.fresh 0) rfl

/-- C11: for a `MemOp` with valid alignment bits, `tcg_canonicalize_memop` aborts
exactly when the size field is `MO_64` and `is64` is false; otherwise it returns a
`MemOp` with the size and alignment fields of `op`, differing from `op` at most
in the `MO_SIGN` (bit 2) and `MO_BSWAP` (bit 3) bits.  It appends nothing. -/
theorem C11_canonical_memop_abort (T : TCGTarget) (op : Nat) (is64 st : Bool)
    (s : TCGContext) (ha : T.alignment_valid op = true) (hop : op < 2 ^ 32) :
    ((tcg_canonicalize_memop T op is64 st s).1 = none ↔
      (op &&& MO_SIZE = MO_64 ∧ is64 = false)) ∧
    (tcg_canonicalize_memop T op is64 st s).2 = s ∧
    ∀ r, (tcg_canonicalize_memop T op is64 st s).1 = some r →
      r &&& MO_SIZE = op &&& MO_SIZE ∧ r &&& MO_AMASK = op &&& MO_AMASK ∧
      ∀ i, i ≠ 2 → i ≠ 3 → r.testBit i = op.testBit i := by
  have f := memop_clear_facts
  refine ⟨?_, ?_, ?_⟩
  · rw [tcg_canonicalize_memop_eq]
    simp only [ha, if_true]
    rcases memop_size_cases op with h | h | h | h
    · simp [h, MO_8, MO_16, MO_32, MO_64]
    · simp [h, MO_8, MO_16, MO_32, MO_64]
    · simp [h, MO_8, MO_16, MO_32, MO_64]
    · cases is64 <;> simp [h, MO_8, MO_16, MO_32, MO_64]
  · rw [tcg_canonicalize_memop_eq]
  · intro r hr
    have hp : tcg_canonicalize_memop T op is64 st s = (some r, s) := by
      rw [← hr, tcg_canonicalize_memop_eq]
    obtain ⟨-, -, -, e⟩ := tcg_canonicalize_memop_some T op is64 st s s r hp
    rw [e]
    simp only []
    refine ⟨?_, ?_, ?_⟩
    · split <;> split <;> (try split) <;> simp only [(f _).2.2.1, (f _).2.2.2.1]
    · split <;> split <;> (try split) <;>
        simp only [(f _).2.2.2.2.2.2.1, (f _).2.2.2.2.2.2.2]
    · intro i h2 h3
      split <;> split <;> (try split) <;>
        simp only [testBit_clear_sign _ i (and_bnot_lt _ _ hop) h2,
          testBit_clear_sign _ i hop h2, testBit_clear_bswap _ i hop h3]

/-- Witness for C11: a 64-bit size with a 32-bit container aborts. -/
theorem C11_canonical_memop_abort_witness :
    (tcg_canonicalize_memop (TCGTarget.plain true) 3 false false (TCGContext.fresh 0)).1 = none :=
  (C11_canonical_memop_abort (TCGTarget.plain true) 3 false false (TCGContext.fresh 0) rfl
    (by decide)).1.2 ⟨by decide, rfl⟩

/-- C13: with `r` the requested mask `type` restricted to the guest default
ordering (when the guest defines one) and with the host's guaranteed bits
cleared, `tcg_gen_req_mo(type)` appends exactly one barrier op with argument
`r | TCG_BAR_SC` when `r ≠ 0` and the unit has `CF_PARALLEL` set, and appends
nothing otherwise; it never aborts and allocates nothing. -/
theorem C13_req_mo (T : TCGTarget) (type : Nat) (s : TCGContext) :
    req_mo_mask T type =
      (match T.TCG_GUEST_DEFAULT_MO with
        | some g => type &&& g
        | none => type) &&& bnot 32 T.TCG_TARGET_DEFAULT_MO ∧
    (req_mo_mask T type ≠ 0 ∧ s.tb_cflags &&& CF_PARALLEL ≠ 0 →
      tcg_gen_req_mo T type s =
        (some (), { s with ops := s.ops ++ [⟨.mb, [req_mo_mask T type ||| TCG_BAR_SC]⟩] }) ∧
      emitted (tcg_gen_req_mo T type) s =
        some [⟨.mb, [req_mo_mask T type ||| TCG_BAR_SC]⟩]) ∧
    (¬ (req_mo_mask T type ≠ 0 ∧ s.tb_cflags &&& CF_PARALLEL ≠ 0) →
      tcg_gen_req_mo T type s = (some (), s) ∧
      emitted (tcg_gen_req_mo T type) s = some []) := by
  refine ⟨rfl, fun h => ?_, fun h => ?_⟩
  · have e := tcg_gen_req_mo_eq T type s
    rw [if_pos h] at e
    refine ⟨e, ?_⟩
    simp [emitted, e]
  · have e := tcg_gen_req_mo_eq T type s
    rw [if_neg h] at e
    refine ⟨e, ?_⟩
    simp [emitted, e]

/-- Witness for C13: a load-load ordering request in a parallel unit on a host
that guarantees nothing appends the barrier `TCG_MO_LD_LD | TCG_BAR_SC`. -/
theorem C13_req_mo_witness :
    emitted (tcg_gen_req_mo (TCGTarget.plain true) TCG_MO_LD_LD)
        { ops := [], nb_temps := 0, tb_cflags := CF_PARALLEL } =
      some [⟨.mb, [req_mo_mask (TCGTarget.plain true) TCG_MO_LD_LD ||| TCG_BAR_SC]⟩] :=
  ((C13_req_mo (TCGTarget.plain true) TCG_MO_LD_LD
    { ops := [], nb_temps := 0, tb_cflags := CF_PARALLEL }).2.1 ⟨by decide, by decide⟩).2

/-- C16: for W in {32, 64} and each of `tcg_gen_shli/shri/sari/rotli/rotri_iW`
with a constant amount `n`: when `n ≥ W` the assertion fails and the routine
aborts in the very context it was entered in (no op appended, no temporary
allocated); when `n = 0` the routine returns with exactly the ops of a move
appended (one `mov_i32` for W = 32; for W = 64 one `mov_i64` on a 64-bit host, a
low-word and a high-word `mov_i32` on a 32-bit host) and the temporary counter
unchanged, so no constant temporary is created. -/
theorem C16_const_shift_edges (T : TCGTarget) (ret arg n : Nat) (s : TCGContext) :
    (32 ≤ n →
      ∀ g ∈ [tcg_gen_shli_i32 ret arg n, tcg_gen_shri_i32 ret arg n, tcg_gen_sari_i32 ret arg n,
             tcg_gen_rotli_i32 T ret arg n, tcg_gen_rotri_i32 T ret arg n],
        aborts g s s) ∧
    (64 ≤ n →
      ∀ g ∈ [tcg_gen_shli_i64 T ret arg n, tcg_gen_shri_i64 T ret arg n,
             tcg_gen_sari_i64 T ret arg n, tcg_gen_rotli_i64 T ret arg n,
             tcg_gen_rotri_i64 T ret arg n],
        aborts g s s) ∧
    (∀ g ∈ [tcg_gen_shli_i32 ret arg 0, tcg_gen_shri_i32 ret arg 0, tcg_gen_sari_i32 ret arg 0,
            tcg_gen_rotli_i32 T ret arg 0, tcg_gen_rotri_i32 T ret arg 0],
        g s = (some (), { s with ops := s.ops ++ [⟨.mov_i32, [ret, arg]⟩] })) ∧
    (∀ g ∈ [tcg_gen_shli_i64 T ret arg 0, tcg_gen_shri_i64 T ret arg 0,
            tcg_gen_sari_i64 T ret arg 0, tcg_gen_rotli_i64 T ret arg 0,
            tcg_gen_rotri_i64 T ret arg 0],
        g s = (some (), { s with ops := s.ops ++
          (if T.reg64 then [⟨.mov_i64, [ret, arg]⟩]
           else [⟨.mov_i32, [TCGV_LOW ret, TCGV_LOW arg]⟩,
                 ⟨.mov_i32, [TCGV_HIGH ret, TCGV_HIGH arg]⟩]) })) := by
  refine ⟨fun h g hg => ?_, fun h g hg => ?_, fun g hg => ?_, fun g hg => ?_⟩
  · obtain ⟨h1, h2, h3, h4, h5⟩ := const_shift_i32_abort T ret arg n h s
    simp only [List.mem_cons, List.mem_singleton, List.not_mem_nil, or_false] at hg
    rcases hg with rfl | rfl | rfl | rfl | rfl <;> assumption
  · obtain ⟨h1, h2, h3, h4, h5⟩ := const_shift_i64_abort T ret arg n h s
    simp only [List.mem_cons, List.mem_singleton, List.not_mem_nil, or_false] at hg
    rcases hg with rfl | rfl | rfl | rfl | rfl <;> assumption
  · obtain ⟨h1, h2, h3, h4, h5⟩ := const_shift_i32_zero T ret arg s
    have e : tcg_gen_mov_i32 ret arg s =
        (some (), { s with ops := s.ops ++ [⟨.mov_i32, [ret, arg]⟩] }) := rfl
    simp only [List.mem_cons, List.mem_singleton, List.not_mem_nil, or_false] at hg
    rcases hg with rfl | rfl | rfl | rfl | rfl
    · exact h1.trans e
    · exact h2.trans e
    · exact h3.trans e
    · exact h4.trans e
    · exact h5.trans e
  · obtain ⟨h1, h2, h3, h4, h5⟩ := const_shift_i64_zero T ret arg s
    have e := tcg_gen_mov_i64_eq T ret arg s
    unfold mov_i64_ops at e
    simp only [List.mem_cons, List.mem_singleton, List.not_mem_nil, or_false] at hg
    rcases hg with rfl | rfl | rfl | rfl | rfl
    · exact h1.trans e
    · exact h2.trans e
    · exact h3.trans e
    · exact h4.trans e
    · exact h5.trans e

/-- Witness for C16: on a 32-bit host a rotate-left of a 64-bit temporary by 64
aborts in the entry context. -/
theorem C16_const_shift_edges_witness :
    aborts (tcg_gen_rotli_i64 (TCGTarget.plain false) 0 2 64) (TCGContext.fresh 4)
      (TCGContext.fresh 4) :=
  (C16_const_shift_edges (TCGTarget.plain false) 0 2 64 (TCGContext.fresh 4)).2.1 (by decide)
    _ (by simp)

/-- C12 (as stated, refuted): in a parallel unit on a host that guarantees no
ordering, `tcg_gen_qemu_ld_i32_with_checked_addr` called with size `MO_64` (which
`tcg_canonicalize_memop` rejects for a 32-bit container) aborts in a context whose
op stream holds the barrier record appended by `tcg_gen_req_mo`, so the stream
differs from the (empty) stream on entry. -/
theorem C12_reject_before_append_counterexample :
    (tcg_canonicalize_memop (TCGTarget.plain true) MO_64 false false
      { ops := [], nb_temps := 2, tb_cflags := CF_PARALLEL }).1 = none ∧
    aborts (tcg_gen_qemu_ld_i32_with_checked_addr (TCGTarget.plain true) 0 1 0 MO_64)
      { ops := [], nb_temps := 2, tb_cflags := CF_PARALLEL }
      { ops := [⟨.mb, [0x33]⟩], nb_temps := 2, tb_cflags := CF_PARALLEL } ∧
    ([⟨.mb, [0x33]⟩] : List TCGOp) ≠ [] :=
  ⟨rfl, rfl, by decide⟩

/-- C12 (amended): for each of the four memory-access entry points and every
call whose `MemOp` is rejected by `tcg_canonicalize_memop` (for the container
the entry point uses), in both execution modes and for every ordering
configuration, the call aborts in the context left by the preceding
`tcg_gen_req_mo`: the op stream equals the stream on entry when the unit is
sequential or the requested ordering `r` is already guaranteed (`r = 0`), and
equals the entry stream followed by the single barrier record `r | TCG_BAR_SC`
otherwise; no other record is appended and no temporary is allocated. -/
theorem C12_reject_after_barrier (T : TCGTarget) (val addr idx memop : Nat) (inv : Bool)
    (s : TCGContext) :
    (∀ type, (tcg_gen_req_mo T type s).2 =
      if req_mo_mask T type ≠ 0 ∧ s.tb_cflags &&& CF_PARALLEL ≠ 0 then
        { s with ops := s.ops ++ [⟨.mb, [req_mo_mask T type ||| TCG_BAR_SC]⟩] }
      else s) ∧
    ((tcg_canonicalize_memop T memop false false s).1 = none →
      aborts (tcg_gen_qemu_ld_i32_with_checked_addr T val addr idx memop) s
        (tcg_gen_req_mo T (TCG_MO_LD_LD ||| TCG_MO_ST_LD) s).2) ∧
    ((tcg_canonicalize_memop T memop false true s).1 = none →
      aborts (tcg_gen_qemu_st_i32_with_checked_addr_cond_invalidate T val addr idx memop inv) s
        (tcg_gen_req_mo T (TCG_MO_LD_ST ||| TCG_MO_ST_ST) s).2) ∧
    ((tcg_canonicalize_memop T memop
        (decide (¬ (¬ T.reg64 ∧ memop &&& MO_SIZE < MO_64))) false s).1 = none →
      aborts (tcg_gen_qemu_ld_i64_with_checked_addr T val addr idx memop) s
        (tcg_gen_req_mo T (TCG_MO_LD_LD ||| TCG_MO_ST_LD) s).2) ∧
    ((tcg_canonicalize_memop T memop
        (decide (¬ (¬ T.reg64 ∧ memop &&& MO_SIZE < MO_64))) true s).1 = none →
      aborts (tcg_gen_qemu_st_i64_with_checked_addr_cond_invalidate T val addr idx memop inv) s
        (tcg_gen_req_mo T (TCG_MO_LD_ST ||| TCG_MO_ST_ST) s).2) := by
  refine ⟨fun type => ?_, ?_, ?_, ?_, ?_⟩
  · rw [tcg_gen_req_mo_eq]
  · exact qemu_ld_i32_reject T val addr idx memop s
  · exact qemu_st_i32_reject T val addr idx memop inv s
  · exact qemu_ld_i64_reject T val addr idx memop s
  · exact qemu_st_i64_reject T val addr idx memop inv s

/-- Witness for C12: a store of size `MO_64` through the 32-bit entry point in a
sequential unit aborts in the context it was entered in. -/
theorem C12_reject_after_barrier_witness :
    aborts (tcg_gen_qemu_st_i32_with_checked_addr_cond_invalidate (TCGTarget.plain true)
        0 1 0 MO_64 true) (TCGContext.fresh 2)
      (tcg_gen_req_mo (TCGTarget.plain true) (TCG_MO_LD_ST ||| TCG_MO_ST_ST)
        (TCGContext.fresh 2)).2 :=
  (C12_reject_after_barrier (TCGTarget.plain true) 0 1 0 MO_64 true
    (TCGContext.fresh 2)).2.2.1 rfl

/-- C18 (the code at the failing input): on a 32-bit host, sign-extracting the
40-bit field at bit 8 of a 64-bit temporary, a field that straddles the two
words with `len > 32`, computes no value: the nested call
`tcg_gen_sextract_i32(t, TCGV_HIGH(arg), ofs + 32, len - 32)` fails its assertion
`ofs < 32`, so the emission aborts right after allocating the scratch
temporary, with no op appended. -/
theorem C18_sextract_i64_straddle_aborts :
    (8 < 64 ∧ 0 < 40 ∧ 40 ≤ 64 ∧ 8 + 40 ≤ 64) ∧
    tcg_gen_sextract_i64 (TCGTarget.plain false) 2 0 8 40 (TCGContext.fresh 4) =
      (none, { ops := [], nb_temps := 5, tb_cflags := 0 }) ∧
    emitted (tcg_gen_sextract_i64 (TCGTarget.plain false) 2 0 8 40) (TCGContext.fresh 4) = none :=
  ⟨by decide, rfl, rfl⟩

/-- C19 (the code in the failing regime): on a 32-bit host, for every field with
`0 < ofs < 32`, `len > 32` and `ofs + len < 64` (arguments that satisfy the
asserted bounds of `tcg_gen_sextract_i64`), the nested call
`tcg_gen_sextract_i32(t, TCGV_HIGH(arg), ofs + 32, len - 32)` is made with an
offset `ofs + 32 ≥ 32` that violates the callee's asserted bound `ofs < 32`; the
callee aborts and so does `tcg_gen_sextract_i64`, having allocated one
temporary and appended nothing. -/
theorem C19_sextract_i64_nested_bound (T : TCGTarget) (hT : T.reg64 = false)
    (ret arg ofs len : Nat) (h0 : 0 < ofs) (h1 : ofs < 32) (h2 : 32 < len)
    (h3 : ofs + len < 64) (s : TCGContext) :
    (ofs < 64 ∧ 0 < len ∧ len ≤ 64 ∧ ofs + len ≤ 64) ∧
    ¬ (ofs + 32 < 32) ∧
    (∀ t s', aborts (tcg_gen_sextract_i32 T t (TCGV_HIGH arg) (ofs + 32) (len - 32)) s' s') ∧
    aborts (tcg_gen_sextract_i64 T ret arg ofs len) s { s with nb_temps := s.nb_temps + 1 } :=
  ⟨⟨by omega, by omega, by omega, by omega⟩, by omega,
   fun t s' => tcg_gen_sextract_i32_bad_ofs T t _ _ _ (by omega) s',
   tcg_gen_sextract_i64_straddle T hT ret arg ofs len h0 h1 h2 h3 s⟩

/-- Witness for C19: the field of 40 bits at bit 8 on a 32-bit host. -/
theorem C19_sextract_i64_nested_bound_witness :
    aborts (tcg_gen_sextract_i64 (TCGTarget.plain false) 2 0 8 40) (TCGContext.fresh 4)
      { TCGContext.fresh 4 with nb_temps := (TCGContext.fresh 4).nb_temps + 1 } :=
  (C19_sextract_i64_nested_bound (TCGTarget.plain false) rfl 2 0 8 40 (by decide) (by decide)
    (by decide) (by decide) (TCGContext.fresh 4)).2.2.2

/-- C14: in a unit translated for parallel execution, for a `MemOp` of size
`MO_64` (with valid alignment bits) on a build without `CONFIG_ATOMIC64`, and
with the `ASSERT_IF_CHERI()` check passing:
`tcg_gen_atomic_cmpxchg_i64_with_checked_addr` returns having appended exactly
the exit-atomic helper call followed by the ops setting the result temporary to
the constant 0 (one `movi_i64`, or a low and a high `movi_i32` on a 32-bit
host); `do_atomic_op_i64` appends the same ops, followed only by the
tag-invalidation and load-link hook ops (none unless the target is MIPS, RISC-V
or CHERI), and is the same whatever the dispatch table; in both cases the
result temporary holds 0 after the appended ops have run. -/
theorem C14_no_atomic64 (T : TCGTarget) (ret addr val cmpv newv idx memop : Nat)
    (s : TCGContext) (m : Machine) (hp : s.tb_cflags &&& CF_PARALLEL ≠ 0)
    (hc : T.ASSERT_IF_CHERI = true) (h64 : T.CONFIG_ATOMIC64 = false)
    (ha : T.alignment_valid memop = true) (hs : memop &&& MO_SIZE = MO_64)
    (hr : ret + T.w64 ≤ s.nb_temps) :
    (tcg_gen_atomic_cmpxchg_i64_with_checked_addr T ret addr cmpv newv idx memop s =
        (some (), s.extend (⟨.call, [Helper.exit_atomic.toCtorIdx]⟩ ::
          (if T.reg64 then [⟨.movi_i64, [ret, 0]⟩]
           else [⟨.movi_i32, [TCGV_LOW ret, 0]⟩, ⟨.movi_i32, [TCGV_HIGH ret, 0]⟩])) 0) ∧
      (run (⟨.call, [Helper.exit_atomic.toCtorIdx]⟩ ::
          (if T.reg64 then [⟨.movi_i64, [ret, 0]⟩]
           else [⟨.movi_i32, [TCGV_LOW ret, 0]⟩, ⟨.movi_i32, [TCGV_HIGH ret, 0]⟩])) m).get64 T ret
        = 0) ∧
    ∃ tail k,
      (∀ table, do_atomic_op_i64 T ret addr val idx memop table s =
        (some (), s.extend (⟨.call, [Helper.exit_atomic.toCtorIdx]⟩ ::
          (if T.reg64 then [⟨.movi_i64, [ret, 0]⟩]
           else [⟨.movi_i32, [TCGV_LOW ret, 0]⟩, ⟨.movi_i32, [TCGV_HIGH ret, 0]⟩]) ++ tail) k)) ∧
      (¬ (T.TARGET_MIPS = true ∨ T.TARGET_RISCV = true ∨ T.TARGET_CHERI = true) → tail = []) ∧
      (run (⟨.call, [Helper.exit_atomic.toCtorIdx]⟩ ::
          (if T.reg64 then [⟨.movi_i64, [ret, 0]⟩]
           else [⟨.movi_i32, [TCGV_LOW ret, 0]⟩, ⟨.movi_i32, [TCGV_HIGH ret, 0]⟩]) ++ tail)
        m).get64 T ret = 0 := by
  have h0 : (m.set64 T ret 0).get64 T ret = 0 := by
    rw [Machine.get64_set64_self]; rfl
  refine ⟨⟨tcg_gen_atomic_cmpxchg_i64_no_atomic64 T ret addr cmpv newv idx memop s hp hc h64 ha hs,
    by rw [run_exit_movi]; exact h0⟩, ?_⟩
  obtain ⟨tail, k, e, r, ht⟩ := do_atomic_op_i64_no_atomic64 T ret addr val idx memop s hc h64 ha hs
  refine ⟨tail, k, e, ht, ?_⟩
  rw [run_append, run_exit_movi, Agree.get64 T (r _) hr]
  exact h0

/-- Witness for C14: a 64-bit host without 64-bit atomics, a parallel unit. -/
theorem C14_no_atomic64_witness :
    tcg_gen_atomic_cmpxchg_i64_with_checked_addr (TCGTarget.plain true) 0 1 2 3 0 MO_64
        { ops := [], nb_temps := 4, tb_cflags := CF_PARALLEL } =
      (some (), ({ ops := [], nb_temps := 4, tb_cflags := CF_PARALLEL } : TCGContext).extend
        [⟨.call, [Helper.exit_atomic.toCtorIdx]⟩, ⟨.movi_i64, [0, 0]⟩] 0) :=
  (C14_no_atomic64 (TCGTarget.plain true) 0 1 2 2 3 0 MO_64
    { ops := [], nb_temps := 4, tb_cflags := CF_PARALLEL } (Machine.ofList []) (by decide) rfl rfl
    rfl (by decide) (by decide)).1.1

/-- C4: for every 32-bit input `x` and default `d`, on every path of
`tcg_gen_clz_i32` (native op, promotion to the 64-bit count, or runtime helper;
every capability assignment `T`) the value computed is `clz32(x)` when `x ≠ 0`
and `d` when `x = 0`; hence `tcg_gen_clzi_i32` of a zero input with default 32
yields 32, and `tcg_gen_clzi_i64` of a zero input with default 64 yields 64 (on
either host word size, whatever the path taken). -/
theorem C4_clz_value (T : TCGTarget) (s : TCGContext) (m : Machine) (ret x d ret64 x64 : Nat)
    (hx : x < s.nb_temps) (hd : d < s.nb_temps) (hr : ret < s.nb_temps)
    (hx64 : x64 + T.w64 ≤ s.nb_temps) (hr64 : ret64 + T.w64 ≤ s.nb_temps)
    (hsep : T.sep ret64 x64) :
    (∃ δ, emitted (tcg_gen_clz_i32 T ret x d) s = some δ ∧
      (run δ m).regs ret =
        if m.regs x % 2 ^ 32 = 0 then m.regs d % 2 ^ 32 else clz 32 (m.regs x % 2 ^ 32)) ∧
    (∃ δ, emitted (tcg_gen_clzi_i32 T ret x 32) s = some δ ∧
      (m.regs x % 2 ^ 32 = 0 → (run δ m).regs ret = 32)) ∧
    (∃ δ, emitted (tcg_gen_clzi_i64 T ret64 x64 64) s = some δ ∧
      (run δ m).get64 T ret64 = (if m.get64 T x64 = 0 then 64 else clz 64 (m.get64 T x64)) ∧
      (m.get64 T x64 = 0 → (run δ m).get64 T ret64 = 64)) ∧
    clz 32 0 = 32 ∧ clz 64 0 = 64 := by
  refine ⟨?_, ?_, ?_, by simp [clz], by simp [clz]⟩
  · obtain ⟨δ, e, r⟩ := (tcg_gen_clz_i32_sem T hx hd hr).emitted s (le_refl _)
    refine ⟨δ, e, ?_⟩
    rw [(r m).2 ret hr]
    simp only [Machine.set_regs_self]
  · obtain ⟨δ, e, r⟩ := (tcg_gen_clzi_i32_sem T 32 hx hr).emitted s (le_refl _)
    refine ⟨δ, e, fun h0 => ?_⟩
    rw [(r m).2 ret hr]
    simp only [Machine.set_regs_self, h0, if_true]
    rfl
  · obtain ⟨δ, e, r⟩ := (tcg_gen_clzi_i64_sem T 64 (by norm_num) hx64 hr64 hsep).emitted s
      (le_refl _)
    have hv : (run δ m).get64 T ret64 =
        (if m.get64 T x64 = 0 then 64 else clz 64 (m.get64 T x64)) := by
      rw [(r m).get64 T hr64, Machine.get64_set64_self]
      have := clz_le 64 (m.get64 T x64)
      split <;> omega
    exact ⟨δ, e, hv, fun h0 => by rw [hv, if_pos h0]⟩

/-- Witness for C4: counting the leading zeros of 0 with default 64 on a 32-bit
host that has the native 32-bit count. -/
theorem C4_clz_value_witness :
    ∃ δ, emitted (tcg_gen_clzi_i64 { TCGTarget.plain false with TCG_TARGET_HAS_clz_i32 := true }
        2 0 64) (TCGContext.fresh 5) = some δ ∧
      (run δ (Machine.ofList [0, 0, 7, 7, 9])).get64
        { TCGTarget.plain false with TCG_TARGET_HAS_clz_i32 := true } 2 = 64 :=
  match C4_clz_value { TCGTarget.plain false with TCG_TARGET_HAS_clz_i32 := true }
      (TCGContext.fresh 5) (Machine.ofList [0, 0, 7, 7, 9]) 4 4 4 2 0
      (by decide) (by decide) (by decide) (by decide) (by decide) (by decide) with
  | ⟨_, _, ⟨δ, e, _, h⟩, _⟩ => ⟨δ, e, h (by decide)⟩

/-- C15 (the code at the failing input): on a 32-bit host, under every
assignment of the capability flags, `tcg_gen_sextract_i64` called with
`ofs = 8`, `len = 40` (within its asserted bounds) reaches an abort, the failed
assertion `ofs < 32` of the nested `tcg_gen_sextract_i32` call, and has appended
no op when it does: the op stream it leaves is the op stream on entry. -/
theorem C15_sextract_i64_appends_nothing (T : TCGTarget) (hT : T.reg64 = false)
    (ret arg : Nat) (s : TCGContext) :
    (8 < 64 ∧ 0 < 40 ∧ 40 ≤ 64 ∧ 8 + 40 ≤ 64) ∧
    (tcg_gen_sextract_i64 T ret arg 8 40 s).1 = none ∧
    (tcg_gen_sextract_i64 T ret arg 8 40 s).2.ops = s.ops ∧
    emitted (tcg_gen_sextract_i64 T ret arg 8 40) s = none := by
  have e := tcg_gen_sextract_i64_straddle T hT ret arg 8 40 (by decide) (by decide) (by decide)
    (by decide) s
  refine ⟨by decide, by rw [e], by rw [e], ?_⟩
  simp [emitted, e]

/-- Witness for C15: a 32-bit host without any optional op. -/
theorem C15_sextract_i64_appends_nothing_witness :
    emitted (tcg_gen_sextract_i64 (TCGTarget.plain false) 2 0 8 40) (TCGContext.fresh 4) = none :=
  (C15_sextract_i64_appends_nothing (TCGTarget.plain false) rfl 2 0 (TCGContext.fresh 4)).2.2.2
/-- C27: for both widths, every value `x`, every constant `0 < n < W` and every
capability assignment (in particular a host without a native rotate, where the
sequence is a left shift, a right shift by `W - n` and an or): `tcg_gen_rotli_iW`
computes `(x << n) | (x >> (W - n))` modulo `2^W`, whose bit `i` is bit
`(i - n) mod W` of `x`, that is `x` rotated left by `n`; `tcg_gen_rotri_iW(x, n)`
is `tcg_gen_rotli_iW(x, W - n)` and its bit `i` is bit `(i + n) mod W` of `x`. -/
theorem C27_rotate_by_constant (T : TCGTarget) (s : TCGContext) (m : Machine)
    (x ret n : Nat) (h0 : 0 < n) :
    (n < 32 → x < s.nb_temps → ret < s.nb_temps →
      (∃ δ, emitted (tcg_gen_rotli_i32 T ret x n) s = some δ ∧
        (run δ m).regs ret =
          (((m.regs x % 2 ^ 32) <<< n) % 2 ^ 32) ||| ((m.regs x % 2 ^ 32) >>> (32 - n)) ∧
        ∀ i, i < 32 → ((run δ m).regs ret).testBit i = (m.regs x).testBit ((i + 32 - n) % 32)) ∧
      tcg_gen_rotri_i32 T ret x n = tcg_gen_rotli_i32 T ret x (32 - n) ∧
      (∃ δ, emitted (tcg_gen_rotri_i32 T ret x n) s = some δ ∧
        ∀ i, i < 32 → ((run δ m).regs ret).testBit i = (m.regs x).testBit ((i + n) % 32))) ∧
    (n < 64 → x + T.w64 ≤ s.nb_temps → ret + T.w64 ≤ s.nb_temps → T.sep ret x →
      (∃ δ, emitted (tcg_gen_rotli_i64 T ret x n) s = some δ ∧
        (run δ m).get64 T ret = ((m.get64 T x <<< n) % 2 ^ 64) ||| (m.get64 T x >>> (64 - n)) ∧
        ∀ i, i < 64 →
          ((run δ m).get64 T ret).testBit i = (m.get64 T x).testBit ((i + 64 - n) % 64)) ∧
      tcg_gen_rotri_i64 T ret x n = tcg_gen_rotli_i64 T ret x (64 - n) ∧
      (∃ δ, emitted (tcg_gen_rotri_i64 T ret x n) s = some δ ∧
        ∀ i, i < 64 →
          ((run δ m).get64 T ret).testBit i = (m.get64 T x).testBit ((i + n) % 64))) := by
  constructor
  · intro hn hx hr
    refine ⟨?_, tcg_gen_rotri_i32_delegates T ret x n h0 hn, ?_⟩
    · obtain ⟨δ, e, r⟩ := (tcg_gen_rotli_i32_sem T (r := ret) hn hx).emitted s (le_refl _)
      have hv : (run δ m).regs ret = rotl 32 (m.regs x) n := by
        rw [(r m).2 ret hr]
        simp only [Machine.set_regs_self]
      refine ⟨δ, e, ?_, fun i hi => ?_⟩
      · rw [hv, rotl_eq_shifts 32 _ n (Nat.mod_lt _ (by norm_num)) hn]
        unfold rotl
        rw [Nat.mod_mod]
      · rw [hv, testBit_rotl_mod 32 _ n i hn hi]
    · obtain ⟨δ, e, r⟩ := (tcg_gen_rotri_i32_sem T (r := ret) hn hx).emitted s (le_refl _)
      refine ⟨δ, e, fun i hi => ?_⟩
      rw [(r m).2 ret hr]
      simp only [Machine.set_regs_self]
      rw [testBit_rotr_mod 32 _ n i hn hi]
  · intro hn hx hr hsep
    refine ⟨?_, tcg_gen_rotri_i64_delegates T ret x n h0 hn, ?_⟩
    · obtain ⟨δ, e, r⟩ := (tcg_gen_rotli_i64_sem T (r := ret) hn hx hr hsep).emitted s (le_refl _)
      have hv : (run δ m).get64 T ret = rotl 64 (m.get64 T x) n := by
        rw [(r m).get64 T hr, Machine.get64_set64_self, Nat.mod_eq_of_lt (rotl_lt 64 _ _)]
      refine ⟨δ, e, ?_, fun i hi => ?_⟩
      · rw [hv, rotl_eq_shifts 64 _ n (Machine.get64_lt T m x) hn]
      · rw [hv, testBit_rotl_mod 64 _ n i hn hi]
    · obtain ⟨δ, e, r⟩ := (tcg_gen_rotri_i64_sem T (r := ret) hn hx hr hsep).emitted s (le_refl _)
      refine ⟨δ, e, fun i hi => ?_⟩
      rw [(r m).get64 T hr, Machine.get64_set64_self, Nat.mod_eq_of_lt (rotr_lt 64 _ _),
        testBit_rotr_mod 64 _ n i hn hi]

/-- Witness for C27: rotating `0x80000001` left by 4 at width 32 on a host without
a native rotate gives `0x18`. -/
theorem C27_rotate_by_constant_witness :
    ∃ δ, emitted (tcg_gen_rotli_i32 (TCGTarget.plain true) 1 0 4) (TCGContext.fresh 2) = some δ ∧
      (run δ (Machine.ofList [0x80000001])).regs 1 = 0x18 :=
  match (C27_rotate_by_constant (TCGTarget.plain true) (TCGContext.fresh 2)
      (Machine.ofList [0x80000001]) 0 1 4 (by decide)).1 (by decide) (by decide) (by decide) with
  | ⟨⟨δ, e, h, _⟩, _⟩ => ⟨δ, e, h.trans (by decide)⟩
/-- C28: on every path of the byte-swap lowerings, in particular the synthesized
ones of a host without the native op, and on both host word sizes:
`tcg_gen_bswap32_i32` returns the reversal of the 4 bytes of any 32-bit input;
`tcg_gen_bswap64_i64` the reversal of the 8 bytes of any 64-bit input;
`tcg_gen_bswap32_i64` the reversal of the low 4 bytes with the high 32 bits zero
for an input whose high 32 bits are zero; `tcg_gen_bswap16_i32/_i64` the two low
bytes exchanged with all higher bits zero for an input below `2^16`. -/
theorem C28_bswap_reverses_bytes (T : TCGTarget) (s : TCGContext) (m : Machine) (x ret : Nat) :
    (x < s.nb_temps → ret < s.nb_temps →
      (∃ δ, emitted (tcg_gen_bswap32_i32 T ret x) s = some δ ∧
        (run δ m).regs ret = bswap32 (m.regs x) ∧ (run δ m).regs ret < 2 ^ 32 ∧
        ∀ k, k < 4 → byte ((run δ m).regs ret) k = byte (m.regs x) (3 - k)) ∧
      (m.regs x < 2 ^ 16 →
        ∃ δ, emitted (tcg_gen_bswap16_i32 T ret x) s = some δ ∧
          (run δ m).regs ret = bswap16 (m.regs x) ∧ (run δ m).regs ret < 2 ^ 16 ∧
          ∀ k, k < 2 → byte ((run δ m).regs ret) k = byte (m.regs x) (1 - k))) ∧
    (x + T.w64 ≤ s.nb_temps → ret + T.w64 ≤ s.nb_temps → T.sep ret x →
      (∃ δ, emitted (tcg_gen_bswap64_i64 T ret x) s = some δ ∧
        (run δ m).get64 T ret = bswap64 (m.get64 T x) ∧
        ∀ k, k < 8 → byte ((run δ m).get64 T ret) k = byte (m.get64 T x) (7 - k)) ∧
      (m.get64 T x < 2 ^ 32 →
        ∃ δ, emitted (tcg_gen_bswap32_i64 T ret x) s = some δ ∧
          (run δ m).get64 T ret = bswap32 (m.get64 T x) ∧ (run δ m).get64 T ret < 2 ^ 32 ∧
          ∀ k, k < 4 → byte ((run δ m).get64 T ret) k = byte (m.get64 T x) (3 - k)) ∧
      (m.get64 T x < 2 ^ 16 →
        ∃ δ, emitted (tcg_gen_bswap16_i64 T ret x) s = some δ ∧
          (run δ m).get64 T ret = bswap16 (m.get64 T x) ∧ (run δ m).get64 T ret < 2 ^ 16 ∧
          ∀ k, k < 2 → byte ((run δ m).get64 T ret) k = byte (m.get64 T x) (1 - k))) := by
  constructor
  · intro hx hr
    constructor
    · obtain ⟨δ, e, r⟩ := (tcg_gen_bswap32_i32_sem T (r := ret) hx hr).emitted s (le_refl _)
      have hv : (run δ m).regs ret = bswap32 (m.regs x) := by
        rw [(r m).2 ret hr]
        simp only [Machine.set_regs_self]
      exact ⟨δ, e, hv, hv ▸ bswap32_lt _, fun k hk => by rw [hv, byte_bswap32 _ k hk]⟩
    · intro hsmall
      obtain ⟨δ, e, r⟩ := (tcg_gen_bswap16_i32_sem T (r := ret) hx hr).emitted s (le_refl _)
      have hv : (run δ m).regs ret = bswap16 (m.regs x) := by
        rw [(r m).2 ret hr]
        simp only [Machine.set_regs_self]
        exact bswap16_path32 _ (m.regs x) hsmall
      exact ⟨δ, e, hv, hv ▸ bswap16_lt _, fun k hk => by rw [hv, byte_bswap16 _ k hk]⟩
  · intro hx hr hsep
    refine ⟨?_, ?_, ?_⟩
    · obtain ⟨δ, e, r⟩ := (tcg_gen_bswap64_i64_sem T (r := ret) hx hr hsep).emitted s (le_refl _)
      have hv : (run δ m).get64 T ret = bswap64 (m.get64 T x) := by
        rw [(r m).get64 T hr, Machine.get64_set64_self, Nat.mod_eq_of_lt (bswap64_lt _)]
      exact ⟨δ, e, hv, fun k hk => by rw [hv, byte_bswap64 _ k hk]⟩
    · intro hsmall
      obtain ⟨δ, e, r⟩ := (tcg_gen_bswap32_i64_sem T (r := ret) hx hr hsep).emitted s (le_refl _)
      have hv : (run δ m).get64 T ret = bswap32 (m.get64 T x) := by
        rw [(r m).get64 T hr, Machine.get64_set64_self,
          Nat.mod_eq_of_lt (lt_trans (bswap32_lt _) (by norm_num))]
      exact ⟨δ, e, hv, hv ▸ bswap32_lt _, fun k hk => by rw [hv, byte_bswap32 _ k hk]⟩
    · intro hsmall
      obtain ⟨δ, e, r⟩ := (tcg_gen_bswap16_i64_sem T (r := ret) hx hr hsep).emitted s (le_refl _)
      have hv : (run δ m).get64 T ret = bswap16 (m.get64 T x) := by
        rw [(r m).get64 T hr, Machine.get64_set64_self, bswap16_path64 _ _ _ (m.get64 T x) hsmall,
          Nat.mod_eq_of_lt (lt_trans (bswap16_lt _) (by norm_num))]
      exact ⟨δ, e, hv, hv ▸ bswap16_lt _, fun k hk => by rw [hv, byte_bswap16 _ k hk]⟩

/-- Witness for C28: on a 32-bit host without any native swap, the synthesized
32-bit swap of `0x11223344` is `0x44332211`. -/
theorem C28_bswap_reverses_bytes_witness :
    ∃ δ, emitted (tcg_gen_bswap32_i32 (TCGTarget.plain false) 1 0) (TCGContext.fresh 2) = some δ ∧
      (run δ (Machine.ofList [0x11223344])).regs 1 = 0x44332211 :=
  match (C28_bswap_reverses_bytes (TCGTarget.plain false) (TCGContext.fresh 2)
      (Machine.ofList [0x11223344]) 0 1).1 (by decide) (by decide) with
  | ⟨⟨δ, e, h, _⟩, _⟩ => ⟨δ, e, h.trans (by decide)⟩
/-- C24: on a 32-bit host, for every 64-bit input `x = hi:lo` held in the pair
`(x, x+1)` and every default `d ≤ 0xffffffff`: with the native 32-bit
leading-zero count, `tcg_gen_clzi_i64(ret, x, d)` leaves high word 0 and low word
`hi ≠ 0 ? clz32(hi) : lo ≠ 0 ? 32 + clz32(lo) : d`; with the native 32-bit
trailing-zero count, `tcg_gen_ctzi_i64(ret, x, d)` leaves high word 0 and low
word `lo ≠ 0 ? ctz32(lo) : hi ≠ 0 ? 32 + ctz32(hi) : d`; both pairs hold the
64-bit count of `x` with default `d` on a zero input, also for `d < 32`, where
the intermediate default `d - 32` wraps modulo `2^32`. -/
theorem C24_count_i64_on_pairs (T : TCGTarget) (hT : T.reg64 = false) (s : TCGContext)
    (m : Machine) (ret x d : Nat) (hd : d ≤ 0xffffffff)
    (hx : x + 2 ≤ s.nb_temps) (hr : ret + 2 ≤ s.nb_temps)
    (hsep : ret = x ∨ ret + 2 ≤ x ∨ x + 2 ≤ ret) :
    (T.TCG_TARGET_HAS_clz_i32 = true →
      ∃ δ, emitted (tcg_gen_clzi_i64 T ret x d) s = some δ ∧
        (run δ m).regs (TCGV_HIGH ret) = 0 ∧
        (run δ m).regs (TCGV_LOW ret) =
          (if m.regs (TCGV_HIGH x) % 2 ^ 32 ≠ 0 then clz 32 (m.regs (TCGV_HIGH x))
           else if m.regs (TCGV_LOW x) % 2 ^ 32 ≠ 0 then 32 + clz 32 (m.regs (TCGV_LOW x))
           else d) ∧
        (run δ m).get64 T ret = (if m.get64 T x = 0 then d else clz 64 (m.get64 T x))) ∧
    (T.TCG_TARGET_HAS_ctz_i32 = true →
      ∃ δ, emitted (tcg_gen_ctzi_i64 T ret x d) s = some δ ∧
        (run δ m).regs (TCGV_HIGH ret) = 0 ∧
        (run δ m).regs (TCGV_LOW ret) =
          (if m.regs (TCGV_LOW x) % 2 ^ 32 ≠ 0 then ctz 32 (m.regs (TCGV_LOW x))
           else if m.regs (TCGV_HIGH x) % 2 ^ 32 ≠ 0 then 32 + ctz 32 (m.regs (TCGV_HIGH x))
           else d) ∧
        (run δ m).get64 T ret = (if m.get64 T x = 0 then d else ctz 64 (m.get64 T x))) := by
  have hw := w64_of_reg32 hT
  have hd64 : d < 2 ^ 64 := by omega
  have hne : TCGV_LOW ret ≠ ret + 1 := by simp [TCGV_LOW]
  have hz := pair64_eq_zero (m.regs x) (m.regs (x + 1))
  constructor
  · intro _
    obtain ⟨δ, e, r⟩ := (tcg_gen_clzi_i64_sem T d hd64 (by omega) (by omega)
      (by omega : ret = x ∨ ret + T.w64 ≤ x ∨ x + T.w64 ≤ ret)).emitted s (le_refl _)
    have hv : (if m.get64 T x = 0 then d else clz 64 (m.get64 T x)) < 2 ^ 32 := by
      have := clz_le 64 (m.get64 T x)
      split <;> omega
    refine ⟨δ, e, ?_, ?_, ?_⟩
    · rw [(r m).2 _ (by simp only [TCGV_HIGH]; omega), Machine.set64_of_reg32 hT]
      simp only [TCGV_HIGH, Machine.set_regs_self]
      rw [Nat.shiftRight_eq_div_pow, Nat.div_eq_of_lt hv]
      rfl
    · rw [(r m).2 _ (by simp only [TCGV_LOW]; omega), Machine.set64_of_reg32 hT,
        Machine.set_regs_ne _ _ hne]
      simp only [TCGV_LOW, TCGV_HIGH, Machine.set_regs_self]
      rw [Nat.mod_eq_of_lt hv, Machine.get64_of_reg32 hT, clz64_pair]
      by_cases hh : m.regs (x + 1) % 2 ^ 32 = 0
      · by_cases hl : m.regs x % 2 ^ 32 = 0
        · simp only [hh, hl, hz.mpr ⟨hl, hh⟩, ne_eq, not_true_eq_false, if_true, if_false]
        · have : ¬ pair64 (m.regs x) (m.regs (x + 1)) = 0 := fun h => hl (hz.mp h).1
          simp only [hh, hl, this, ne_eq, not_true_eq_false, not_false_eq_true, if_true,
            if_false]
      · have : ¬ pair64 (m.regs x) (m.regs (x + 1)) = 0 := fun h => hh (hz.mp h).2
        simp only [hh, this, ne_eq, not_false_eq_true, if_true, if_false]
    · rw [(r m).get64 T (by omega), Machine.get64_set64_self,
        Nat.mod_eq_of_lt (lt_trans hv (by norm_num))]
  · intro _
    obtain ⟨δ, e, r⟩ := (tcg_gen_ctzi_i64_sem T d hd64 (by omega) (by omega)
      (by omega : ret = x ∨ ret + T.w64 ≤ x ∨ x + T.w64 ≤ ret)).emitted s (le_refl _)
    have hv : (if m.get64 T x = 0 then d else ctz 64 (m.get64 T x)) < 2 ^ 32 := by
      have := (ctz_spec 64 (m.get64 T x)).1
      split <;> omega
    refine ⟨δ, e, ?_, ?_, ?_⟩
    · rw [(r m).2 _ (by simp only [TCGV_HIGH]; omega), Machine.set64_of_reg32 hT]
      simp only [TCGV_HIGH, Machine.set_regs_self]
      rw [Nat.shiftRight_eq_div_pow, Nat.div_eq_of_lt hv]
      rfl
    · rw [(r m).2 _ (by simp only [TCGV_LOW]; omega), Machine.set64_of_reg32 hT,
        Machine.set_regs_ne _ _ hne]
      simp only [TCGV_LOW, TCGV_HIGH, Machine.set_regs_self]
      rw [Nat.mod_eq_of_lt hv, Machine.get64_of_reg32 hT, ctz64_pair]
      by_cases hl : m.regs x % 2 ^ 32 = 0
      · by_cases hh : m.regs (x + 1) % 2 ^ 32 = 0
        · simp only [hh, hl, hz.mpr ⟨hl, hh⟩, ne_eq, not_true_eq_false, if_true, if_false]
        · have : ¬ pair64 (m.regs x) (m.regs (x + 1)) = 0 := fun h => hh (hz.mp h).2
          simp only [hh, hl, this, ne_eq, not_true_eq_false, not_false_eq_true, if_true,
            if_false]
      · have : ¬ pair64 (m.regs x) (m.regs (x + 1)) = 0 := fun h => hl (hz.mp h).1
        simp only [hl, this, ne_eq, not_false_eq_true, if_true, if_false]
    · rw [(r m).get64 T (by omega), Machine.get64_set64_self,
        Nat.mod_eq_of_lt (lt_trans hv (by norm_num))]

/-- Witness for C24: on a 32-bit host with the native 32-bit trailing-zero count,
the count of the zero input with default 5 (below 32, so the intermediate
default wraps) is 5, and the high word is 0. -/
theorem C24_count_i64_on_pairs_witness :
    ∃ δ, emitted (tcg_gen_ctzi_i64 { TCGTarget.plain false with TCG_TARGET_HAS_ctz_i32 := true }
        2 0 5) (TCGContext.fresh 4) = some δ ∧
      (run δ (Machine.ofList [0, 0, 7, 7])).regs 3 = 0 ∧
      (run δ (Machine.ofList [0, 0, 7, 7])).regs 2 = 5 :=
  match (C24_count_i64_on_pairs { TCGTarget.plain false with TCG_TARGET_HAS_ctz_i32 := true }
      rfl (TCGContext.fresh 4) (Machine.ofList [0, 0, 7, 7]) 2 0 5 (by decide) (by decide)
      (by decide) (by decide)).2 rfl with
  | ⟨δ, e, h1, h2, _⟩ => ⟨δ, e, h1, h2.trans (by decide)⟩
/-- C25: for both widths, every input `x` and every default `d`, under every
capability assignment (so also without a native trailing-zero count, on the
popcount path `popcount((x - 1) & ~x)` followed by a select on `x == 0`, on the
leading-zero path `(W - 1) ^ clz(x & -x)` and on the helper path):
`tcg_gen_ctz_iW(x, d)` returns `d` when `x = 0` and otherwise the index of the
lowest set bit of `x`; `tcg_gen_ctzi_iW(x, W)`, which takes the fix-up-free
shortcut when only the popcount is native, returns `W` when `x = 0` and the
trailing-zero count otherwise; and the two identities behind the paths hold for
every non-zero `x` below `2^W`. -/
theorem C25_ctz_paths (T : TCGTarget) (s : TCGContext) (m : Machine) (ret x d : Nat) :
    (x < s.nb_temps → d < s.nb_temps → ret < s.nb_temps →
      (∃ δ, emitted (tcg_gen_ctz_i32 T ret x d) s = some δ ∧
        (run δ m).regs ret =
          (if m.regs x % 2 ^ 32 = 0 then m.regs d % 2 ^ 32 else ctz 32 (m.regs x % 2 ^ 32)) ∧
        (m.regs x % 2 ^ 32 ≠ 0 →
          (m.regs x).testBit ((run δ m).regs ret) = true ∧
          ∀ i, i < (run δ m).regs ret → (m.regs x).testBit i = false)) ∧
      (∃ δ, emitted (tcg_gen_ctzi_i32 T ret x 32) s = some δ ∧
        (run δ m).regs ret =
          (if m.regs x % 2 ^ 32 = 0 then 32 else ctz 32 (m.regs x % 2 ^ 32)))) ∧
    (x + T.w64 ≤ s.nb_temps → d + T.w64 ≤ s.nb_temps → ret + T.w64 ≤ s.nb_temps →
      T.sep ret d → T.sep ret x →
      (∃ δ, emitted (tcg_gen_ctz_i64 T ret x d) s = some δ ∧
        (run δ m).get64 T ret =
          (if m.get64 T x = 0 then m.get64 T d else ctz 64 (m.get64 T x))) ∧
      (∃ δ, emitted (tcg_gen_ctzi_i64 T ret x 64) s = some δ ∧
        (run δ m).get64 T ret = (if m.get64 T x = 0 then 64 else ctz 64 (m.get64 T x)))) ∧
    (∀ v, v < 2 ^ 32 → v ≠ 0 →
      ctpop 32 (((v + 2 ^ 32 - 1) % 2 ^ 32) &&& bnot 32 v) = ctz 32 v ∧
      clz 32 (((2 ^ 32 - v) % 2 ^ 32) &&& v) ^^^ 31 = ctz 32 v) ∧
    (∀ v, v < 2 ^ 64 → v ≠ 0 →
      ctpop 64 (((v + 2 ^ 64 - 1) % 2 ^ 64) &&& bnot 64 v) = ctz 64 v ∧
      clz 64 (((2 ^ 64 - v) % 2 ^ 64) &&& v) ^^^ 63 = ctz 64 v) ∧
    ctpop 32 (((0 + 2 ^ 32 - 1) % 2 ^ 32) &&& bnot 32 0) = 32 ∧
    ctpop 64 (((0 + 2 ^ 64 - 1) % 2 ^ 64) &&& bnot 64 0) = 64 := by
  refine ⟨?_, ?_, fun v hv h0 => ⟨ctz_via_ctpop 32 v hv h0, ctz_via_clz 32 v (Or.inl rfl) hv h0⟩,
    fun v hv h0 => ⟨ctz_via_ctpop 64 v hv h0, ctz_via_clz 64 v (Or.inr rfl) hv h0⟩,
    ctpop_all_ones 32, ctpop_all_ones 64⟩
  · intro hx hd hr
    constructor
    · obtain ⟨δ, e, r⟩ := (tcg_gen_ctz_i32_sem T hx hd hr).emitted s (le_refl _)
      have hv : (run δ m).regs ret =
          (if m.regs x % 2 ^ 32 = 0 then m.regs d % 2 ^ 32
            else ctz 32 (m.regs x % 2 ^ 32)) := by
        rw [(r m).2 ret hr]
        simp only [Machine.set_regs_self]
      refine ⟨δ, e, hv, fun h0 => ?_⟩
      rw [hv, if_neg h0, ctz_mod]
      have hk := ctz_lt_of_ne_zero 32 (m.regs x) h0
      obtain ⟨h1, h2, h3⟩ := ctz_spec 32 (m.regs x)
      exact ⟨h2 hk, h3⟩
    · obtain ⟨δ, e, r⟩ := (tcg_gen_ctzi_i32_sem T 32 hx hr).emitted s (le_refl _)
      refine ⟨δ, e, ?_⟩
      rw [(r m).2 ret hr]
      simp only [Machine.set_regs_self]
      rfl
  · intro hx hd hr hs1 hs2
    constructor
    · obtain ⟨δ, e, r⟩ := (tcg_gen_ctz_i64_sem T hx hd hr hs1).emitted s (le_refl _)
      refine ⟨δ, e, ?_⟩
      rw [(r m).get64 T hr, Machine.get64_set64_self]
      have h1 := (ctz_spec 64 (m.get64 T x)).1
      have h2 := Machine.get64_lt T m d
      split <;> omega
    · obtain ⟨δ, e, r⟩ := (tcg_gen_ctzi_i64_sem T 64 (by norm_num) hx hr hs2).emitted s
        (le_refl _)
      refine ⟨δ, e, ?_⟩
      rw [(r m).get64 T hr, Machine.get64_set64_self]
      have h1 := (ctz_spec 64 (m.get64 T x)).1
      split <;> omega

/-- Witness for C25: on a 64-bit host whose only native count is the 32-bit
popcount, the trailing-zero count of `0x50` with default 99 is 4. -/
theorem C25_ctz_paths_witness :
    ∃ δ, emitted (tcg_gen_ctz_i32 { TCGTarget.plain true with TCG_TARGET_HAS_ctpop_i32 := true }
        2 0 1) (TCGContext.fresh 3) = some δ ∧
      (run δ (Machine.ofList [0x50, 99, 0])).regs 2 = 4 :=
  match (C25_ctz_paths { TCGTarget.plain true with TCG_TARGET_HAS_ctpop_i32 := true }
      (TCGContext.fresh 3) (Machine.ofList [0x50, 99, 0]) 2 0 1).1 (by decide) (by decide)
      (by decide) with
  | ⟨⟨δ, e, h, _⟩, _⟩ => ⟨δ, e, h.trans (by decide)⟩
/-- C23 (as stated, refuted): on a 32-bit host whose back end has neither the
native unsigned wide multiply nor the native unsigned high multiply, the third
lowering path of `tcg_gen_mulu2_i32` calls `tcg_gen_mul_i64` again, which calls
`tcg_gen_mulu2_i32` again: at no call depth does `tcg_gen_mul_i64` produce an op
sequence, so no pair is produced. -/
theorem C23_mul_i64_bare_host_counterexample :
    (TCGTarget.plain false).reg64 = false ∧
    (TCGTarget.plain false).TCG_TARGET_HAS_mulu2_i32 = false ∧
    (TCGTarget.plain false).TCG_TARGET_HAS_muluh_i32 = false ∧
    ¬ ∃ fuel δ, emitted (tcg_gen_mul_i64 (TCGTarget.plain false) fuel 4 0 2)
      (TCGContext.fresh 6) = some δ := by
  refine ⟨rfl, rfl, rfl, ?_⟩
  rintro ⟨fuel, δ, h⟩
  have e := (mul_fuel_never_returns (TCGTarget.plain false) rfl rfl rfl fuel).1 4 0 2
    (TCGContext.fresh 6)
  unfold emitted at h
  rw [e] at h
  exact absurd h (by simp)

/-- C23 (amended): on a 32-bit host whose back end has the native unsigned wide
multiply or the native unsigned high multiply (the first two lowering paths of
the inner `tcg_gen_mulu2_i32`), for every pair of 64-bit values `a = ah:al` and
`b = bh:bl`: `tcg_gen_mul_i64` returns, and the (low, high) pair it produces
equals `(a*b) mod 2^64`, with `low = low32(al*bl)` and
`high = high32(al*bl) + al*bh + ah*bl mod 2^32`. -/
theorem C23_mul_i64_pairs (T : TCGTarget) (hT : T.reg64 = false)
    (hcap : T.TCG_TARGET_HAS_mulu2_i32 = true ∨ T.TCG_TARGET_HAS_muluh_i32 = true)
    (fuel : Nat) (hf : 0 < fuel) (s : TCGContext) (m : Machine) (ret a b : Nat)
    (ha : a + 2 ≤ s.nb_temps) (hb : b + 2 ≤ s.nb_temps) (hr : ret + 2 ≤ s.nb_temps) :
    ∃ δ, emitted (tcg_gen_mul_i64 T fuel ret a b) s = some δ ∧
      (run δ m).get64 T ret = (m.get64 T a * m.get64 T b) % 2 ^ 64 ∧
      m.get64 T a = m.regs (TCGV_LOW a) % 2 ^ 32 + (m.regs (TCGV_HIGH a) % 2 ^ 32) * 2 ^ 32 ∧
      m.get64 T b = m.regs (TCGV_LOW b) % 2 ^ 32 + (m.regs (TCGV_HIGH b) % 2 ^ 32) * 2 ^ 32 ∧
      (run δ m).regs (TCGV_LOW ret) =
        ((m.regs (TCGV_LOW a) % 2 ^ 32) * (m.regs (TCGV_LOW b) % 2 ^ 32)) % 2 ^ 32 ∧
      (run δ m).regs (TCGV_HIGH ret) =
        ((m.regs (TCGV_LOW a) % 2 ^ 32) * (m.regs (TCGV_LOW b) % 2 ^ 32) / 2 ^ 32 +
          (m.regs (TCGV_LOW a) % 2 ^ 32) * (m.regs (TCGV_HIGH b) % 2 ^ 32) +
          (m.regs (TCGV_HIGH a) % 2 ^ 32) * (m.regs (TCGV_LOW b) % 2 ^ 32)) % 2 ^ 32 := by
  have hw := w64_of_reg32 hT
  obtain ⟨δ, e, r⟩ := (tcg_gen_mul_i64_sem T fuel (r := ret) (a := a) (b := b)
    (Or.inr ⟨hf, hcap⟩) (by omega) (by omega) (by omega)).emitted s (le_refl _)
  have hA : m.get64 T a = m.regs (TCGV_LOW a) % 2 ^ 32 +
      (m.regs (TCGV_HIGH a) % 2 ^ 32) * 2 ^ 32 := by
    rw [Machine.get64_of_reg32 hT, pair64_eq_add]
    rfl
  have hB : m.get64 T b = m.regs (TCGV_LOW b) % 2 ^ 32 +
      (m.regs (TCGV_HIGH b) % 2 ^ 32) * 2 ^ 32 := by
    rw [Machine.get64_of_reg32 hT, pair64_eq_add]
    rfl
  have hW := mul64_words (m.regs (TCGV_LOW a)) (m.regs (TCGV_HIGH a)) (m.regs (TCGV_LOW b))
    (m.regs (TCGV_HIGH b))
  rw [← hA, ← hB] at hW
  refine ⟨δ, e, ?_, hA, hB, ?_, ?_⟩
  · rw [(r m).get64 T (by omega), Machine.get64_set64_self, Nat.mod_mod]
  · rw [(r m).2 _ (by simp only [TCGV_LOW]; omega), Machine.set64_of_reg32 hT,
      Machine.set_regs_ne _ _ (by simp [TCGV_LOW, TCGV_HIGH])]
    simp only [TCGV_LOW, TCGV_HIGH, Machine.set_regs_self] at hW ⊢
    rw [hW]
    omega
  · rw [(r m).2 _ (by simp only [TCGV_HIGH]; omega), Machine.set64_of_reg32 hT]
    simp only [TCGV_LOW, TCGV_HIGH, Machine.set_regs_self] at hW ⊢
    rw [hW, Nat.shiftRight_eq_div_pow]
    omega

/-- Witness for C23: on a 32-bit host with the native unsigned high multiply,
`0x0000000200000003 * 0x0000000500000007` leaves low word `0x15` and high word
`0x1d`. -/
theorem C23_mul_i64_pairs_witness :
    ∃ δ, emitted (tcg_gen_mul_i64 { TCGTarget.plain false with TCG_TARGET_HAS_muluh_i32 := true }
        1 4 0 2) (TCGContext.fresh 6) = some δ ∧
      (run δ (Machine.ofList [3, 2, 7, 5])).regs 4 = 0x15 ∧
      (run δ (Machine.ofList [3, 2, 7, 5])).regs 5 = 0x1d :=
  match C23_mul_i64_pairs { TCGTarget.plain false with TCG_TARGET_HAS_muluh_i32 := true }
      rfl (Or.inr rfl) 1 (by decide) (TCGContext.fresh 6) (Machine.ofList [3, 2, 7, 5]) 4 0 2
      (by decide) (by decide) (by decide) with
  | ⟨δ, e, _, _, _, h1, h2⟩ => ⟨δ, e, h1.trans (by decide), h2.trans (by decide)⟩
/-- C22: for all 64-bit words `al`, `ah`, `bl`, `bh`, on both host word sizes: on
the synthesized path of `tcg_gen_add2_i64` the low result is `al + bl mod 2^64`,
the high result is `ah + bh + carry mod 2^64` with
`carry = ((al + bl mod 2^64) <u al)`, and `rh*2^64 + rl` equals
`(ah*2^64 + al) + (bh*2^64 + bl) mod 2^128`; on the synthesized path of
`tcg_gen_sub2_i64` the low result is `al - bl mod 2^64`, the high result is
`ah - bh - borrow mod 2^64` with `borrow = (al <u bl)`, and `rh*2^64 + rl` equals
`(ah*2^64 + al) - (bh*2^64 + bl) mod 2^128`. -/
theorem C22_add2_sub2_i64 (T : TCGTarget) (s : TCGContext) (m : Machine)
    (rl rh al ah bl bh : Nat)
    (hal : al + T.w64 ≤ s.nb_temps) (hah : ah + T.w64 ≤ s.nb_temps)
    (hbl : bl + T.w64 ≤ s.nb_temps) (hbh : bh + T.w64 ≤ s.nb_temps)
    (hrl : rl + T.w64 ≤ s.nb_temps) (hrh : rh + T.w64 ≤ s.nb_temps)
    (hsep : rl + T.w64 ≤ rh ∨ rh + T.w64 ≤ rl) :
    (T.TCG_TARGET_HAS_add2_i64 = false →
      ∃ δ, emitted (tcg_gen_add2_i64 T rl rh al ah bl bh) s = some δ ∧
        (run δ m).get64 T rl = (m.get64 T al + m.get64 T bl) % 2 ^ 64 ∧
        (run δ m).get64 T rh = (m.get64 T ah + m.get64 T bh +
          (if (m.get64 T al + m.get64 T bl) % 2 ^ 64 < m.get64 T al then 1 else 0)) % 2 ^ 64 ∧
        (run δ m).get64 T rh * 2 ^ 64 + (run δ m).get64 T rl =
          ((m.get64 T ah * 2 ^ 64 + m.get64 T al) +
            (m.get64 T bh * 2 ^ 64 + m.get64 T bl)) % 2 ^ 128) ∧
    (T.TCG_TARGET_HAS_sub2_i64 = false →
      ∃ δ, emitted (tcg_gen_sub2_i64 T rl rh al ah bl bh) s = some δ ∧
        (run δ m).get64 T rl = (m.get64 T al + 2 ^ 64 - m.get64 T bl) % 2 ^ 64 ∧
        (run δ m).get64 T rh = (m.get64 T ah + 2 ^ 64 + 2 ^ 64 - m.get64 T bh -
          (if m.get64 T al < m.get64 T bl then 1 else 0)) % 2 ^ 64 ∧
        (run δ m).get64 T rh * 2 ^ 64 + (run δ m).get64 T rl =
          ((m.get64 T ah * 2 ^ 64 + m.get64 T al) + 2 ^ 128 -
            (m.get64 T bh * 2 ^ 64 + m.get64 T bl)) % 2 ^ 128) := by
  have hw1 := w64_pos T
  have h1 := Machine.get64_lt T m al
  have h2 := Machine.get64_lt T m ah
  have h3 := Machine.get64_lt T m bl
  have h4 := Machine.get64_lt T m bh
  constructor
  · intro hcap
    obtain ⟨δ, e, r⟩ := (tcg_gen_add2_i64_sem T hcap hal hah hbl hbh hrl hrh hsep).emitted s
      (le_refl _)
    have el : (run δ m).get64 T rl = (m.get64 T al + m.get64 T bl) % 2 ^ 64 := by
      rw [(r m).get64 T hrl, Machine.get64_set64_self, Nat.mod_mod]
    have eh : (run δ m).get64 T rh = (m.get64 T ah + m.get64 T bh +
        (if (m.get64 T al + m.get64 T bl) % 2 ^ 64 < m.get64 T al then 1 else 0)) % 2 ^ 64 := by
      rw [(r m).get64 T hrh, Machine.get64_set64_ne T _ _ (by omega),
        Machine.get64_set64_self, Nat.mod_mod]
    refine ⟨δ, e, el, eh, ?_⟩
    rw [el, eh]
    split <;> omega
  · intro hcap
    obtain ⟨δ, e, r⟩ := (tcg_gen_sub2_i64_sem T hcap hal hah hbl hbh hrl hrh hsep).emitted s
      (le_refl _)
    have el : (run δ m).get64 T rl = (m.get64 T al + 2 ^ 64 - m.get64 T bl) % 2 ^ 64 := by
      rw [(r m).get64 T hrl, Machine.get64_set64_self, Nat.mod_mod]
    have eh : (run δ m).get64 T rh = (m.get64 T ah + 2 ^ 64 + 2 ^ 64 - m.get64 T bh -
        (if m.get64 T al < m.get64 T bl then 1 else 0)) % 2 ^ 64 := by
      rw [(r m).get64 T hrh, Machine.get64_set64_ne T _ _ (by omega),
        Machine.get64_set64_self, Nat.mod_mod]
    refine ⟨δ, e, el, eh, ?_⟩
    rw [el, eh]
    split <;> omega

/-- Witness for C22: on a 64-bit host without the native double-word add,
`(1:0xffffffffffffffff) + (2:1)` leaves low word `0` and high word `4`. -/
theorem C22_add2_sub2_i64_witness :
    ∃ δ, emitted (tcg_gen_add2_i64 (TCGTarget.plain true) 4 5 0 1 2 3) (TCGContext.fresh 6) =
        some δ ∧
      (run δ (Machine.ofList [0xffffffffffffffff, 1, 1, 2])).get64 (TCGTarget.plain true) 4 = 0 ∧
      (run δ (Machine.ofList [0xffffffffffffffff, 1, 1, 2])).get64 (TCGTarget.plain true) 5 = 4 :=
  match (C22_add2_sub2_i64 (TCGTarget.plain true) (TCGContext.fresh 6)
      (Machine.ofList [0xffffffffffffffff, 1, 1, 2]) 4 5 0 1 2 3 (by decide) (by decide)
      (by decide) (by decide) (by decide) (by decide) (by decide)).1 rfl with
  | ⟨δ, e, h1, h2, _⟩ => ⟨δ, e, h1.trans (by decide), h2.trans (by decide)⟩
/-- C26 (as stated, refuted): on a 32-bit host whose back end has neither the
native unsigned wide multiply nor the native unsigned high multiply,
`tcg_gen_muli_i64` with the constant 3 (not zero, not a power of two) reaches
`tcg_gen_mul_i64`, whose nesting with `tcg_gen_mulu2_i32` never ends: at no call
depth is an op sequence produced, so no value is computed. -/
theorem C26_muli_i64_bare_host_counterexample :
    (TCGTarget.plain false).reg64 = false ∧
    (TCGTarget.plain false).TCG_TARGET_HAS_mulu2_i32 = false ∧
    (TCGTarget.plain false).TCG_TARGET_HAS_muluh_i32 = false ∧
    is_power_of_2 3 = false ∧
    ¬ ∃ fuel δ, emitted (tcg_gen_muli_i64 (TCGTarget.plain false) fuel 2 0 3)
      (TCGContext.fresh 4) = some δ := by
  refine ⟨rfl, rfl, rfl, by decide, ?_⟩
  rintro ⟨fuel, δ, h⟩
  have e : (tcg_gen_muli_i64 (TCGTarget.plain false) fuel 2 0 3 (TCGContext.fresh 4)).1 =
      none := by
    unfold tcg_gen_muli_i64
    rw [if_neg (by decide), if_neg (by decide)]
    refine Gen.bind_fails_right _ _ (fun t s1 => ?_) _
    exact Gen.bind_fails_left _ _
      ((mul_fuel_never_returns (TCGTarget.plain false) rfl rfl rfl fuel).1 _ _ _) s1
  unfold emitted at h
  rw [e] at h
  exact absurd h (by simp)

/-- C26 (amended): for each immediate-form routine `tcg_gen_addi`, `subi`,
`andi`, `ori`, `xori` and `muli` at widths 32 and 64, every `x`, every constant
`c` and every capability assignment (and, for width 64, both host word sizes),
the routine returns and the computed value equals the general binary operation
applied to `x` and `c` modulo `2^W`, whichever special case is taken; except that
`tcg_gen_muli_i64` on a 32-bit host, for a constant that is neither zero nor a
power of two, does so only when the back end has the native unsigned wide
multiply or the native unsigned high multiply. -/
theorem C26_immediate_forms (T : TCGTarget) (fuel : Nat) (s : TCGContext) (m : Machine)
    (ret x c : Nat) :
    (x < s.nb_temps → ret < s.nb_temps →
      (∃ δ, emitted (tcg_gen_addi_i32 ret x c) s = some δ ∧
        (run δ m).regs ret = (m.regs x % 2 ^ 32 + c % 2 ^ 32) % 2 ^ 32) ∧
      (∃ δ, emitted (tcg_gen_subi_i32 ret x c) s = some δ ∧
        (run δ m).regs ret = (m.regs x % 2 ^ 32 + 2 ^ 32 - c % 2 ^ 32) % 2 ^ 32) ∧
      (∃ δ, emitted (tcg_gen_andi_i32 T ret x c) s = some δ ∧
        (run δ m).regs ret = m.regs x % 2 ^ 32 &&& c % 2 ^ 32) ∧
      (∃ δ, emitted (tcg_gen_ori_i32 ret x c) s = some δ ∧
        (run δ m).regs ret = m.regs x % 2 ^ 32 ||| c % 2 ^ 32) ∧
      (∃ δ, emitted (tcg_gen_xori_i32 T ret x c) s = some δ ∧
        (run δ m).regs ret = m.regs x % 2 ^ 32 ^^^ c % 2 ^ 32) ∧
      (c < 2 ^ 32 → ∃ δ, emitted (tcg_gen_muli_i32 ret x c) s = some δ ∧
        (run δ m).regs ret = (m.regs x % 2 ^ 32 * c) % 2 ^ 32)) ∧
    (x + T.w64 ≤ s.nb_temps → ret + T.w64 ≤ s.nb_temps → T.sep ret x →
      (∃ δ, emitted (tcg_gen_addi_i64 T ret x c) s = some δ ∧
        (run δ m).get64 T ret = (m.get64 T x + c % 2 ^ 64) % 2 ^ 64) ∧
      (∃ δ, emitted (tcg_gen_subi_i64 T ret x c) s = some δ ∧
        (run δ m).get64 T ret = (m.get64 T x + 2 ^ 64 - c % 2 ^ 64) % 2 ^ 64) ∧
      (∃ δ, emitted (tcg_gen_andi_i64 T ret x c) s = some δ ∧
        (run δ m).get64 T ret = (m.get64 T x &&& c) % 2 ^ 64) ∧
      (∃ δ, emitted (tcg_gen_ori_i64 T ret x c) s = some δ ∧
        (run δ m).get64 T ret = (m.get64 T x ||| c) % 2 ^ 64) ∧
      (∃ δ, emitted (tcg_gen_xori_i64 T ret x c) s = some δ ∧
        (run δ m).get64 T ret = (m.get64 T x ^^^ c) % 2 ^ 64) ∧
      (c < 2 ^ 64 →
        (T.reg64 = true ∨
          (0 < fuel ∧
            (T.TCG_TARGET_HAS_mulu2_i32 = true ∨ T.TCG_TARGET_HAS_muluh_i32 = true)) ∨
          c = 0 ∨ is_power_of_2 c = true) →
        ∃ δ, emitted (tcg_gen_muli_i64 T fuel ret x c) s = some δ ∧
          (run δ m).get64 T ret = (m.get64 T x * c) % 2 ^ 64)) := by
  constructor
  · intro hx hr
    refine ⟨?_, ?_, ?_, ?_, ?_, fun hc => ?_⟩
    · obtain ⟨δ, e, r⟩ := (tcg_gen_addi_i32_sem (r := ret) c hx).emitted s (le_refl _)
      exact ⟨δ, e, by rw [(r m).2 ret hr, Machine.set_regs_self]⟩
    · obtain ⟨δ, e, r⟩ := (tcg_gen_subi_i32_sem (r := ret) c hx).emitted s (le_refl _)
      exact ⟨δ, e, by rw [(r m).2 ret hr, Machine.set_regs_self]⟩
    · obtain ⟨δ, e, r⟩ := (tcg_gen_andi_i32_sem T (r := ret) c hx).emitted s (le_refl _)
      exact ⟨δ, e, by rw [(r m).2 ret hr, Machine.set_regs_self]⟩
    · obtain ⟨δ, e, r⟩ := (tcg_gen_ori_i32_sem (r := ret) c hx).emitted s (le_refl _)
      exact ⟨δ, e, by rw [(r m).2 ret hr, Machine.set_regs_self]⟩
    · obtain ⟨δ, e, r⟩ := (tcg_gen_xori_i32_sem T (r := ret) c hx).emitted s (le_refl _)
      exact ⟨δ, e, by rw [(r m).2 ret hr, Machine.set_regs_self]⟩
    · obtain ⟨δ, e, r⟩ := (tcg_gen_muli_i32_sem (r := ret) c hc hx).emitted s (le_refl _)
      exact ⟨δ, e, by rw [(r m).2 ret hr, Machine.set_regs_self]⟩
  · intro hx hr hsep
    refine ⟨?_, ?_, ?_, ?_, ?_, fun hc hcap => ?_⟩
    · obtain ⟨δ, e, r⟩ := (tcg_gen_addi_i64_sem T (r := ret) c hx hsep).emitted s (le_refl _)
      exact ⟨δ, e, by rw [(r m).get64 T hr, Machine.get64_set64_self, Nat.mod_mod]⟩
    · obtain ⟨δ, e, r⟩ := (tcg_gen_subi_i64_sem T (r := ret) c hx hsep).emitted s (le_refl _)
      exact ⟨δ, e, by rw [(r m).get64 T hr, Machine.get64_set64_self, Nat.mod_mod]⟩
    · obtain ⟨δ, e, r⟩ := (tcg_gen_andi_i64_sem T (r := ret) c hx hsep).emitted s (le_refl _)
      exact ⟨δ, e, by rw [(r m).get64 T hr, Machine.get64_set64_self]⟩
    · obtain ⟨δ, e, r⟩ := (tcg_gen_ori_i64_sem T (r := ret) c hx hsep).emitted s (le_refl _)
      exact ⟨δ, e, by rw [(r m).get64 T hr, Machine.get64_set64_self]⟩
    · obtain ⟨δ, e, r⟩ := (tcg_gen_xori_i64_sem T (r := ret) c hx hsep).emitted s (le_refl _)
      exact ⟨δ, e, by rw [(r m).get64 T hr, Machine.get64_set64_self]⟩
    · obtain ⟨δ, e, r⟩ := (tcg_gen_muli_i64_sem T fuel (r := ret) c hc hcap hx hr
        hsep).emitted s (le_refl _)
      exact ⟨δ, e, by rw [(r m).get64 T hr, Machine.get64_set64_self, Nat.mod_mod]⟩

/-- Witness for C26: on a 32-bit host with the native unsigned high multiply,
`tcg_gen_muli_i64` by the constant 3 of `0x0000000100000005` gives
`0x000000030000000f`. -/
theorem C26_immediate_forms_witness :
    ∃ δ, emitted (tcg_gen_muli_i64 { TCGTarget.plain false with TCG_TARGET_HAS_muluh_i32 := true }
        1 2 0 3) (TCGContext.fresh 4) = some δ ∧
      (run δ (Machine.ofList [5, 1])).get64
        { TCGTarget.plain false with TCG_TARGET_HAS_muluh_i32 := true } 2 = 0x30000000f :=
  match (C26_immediate_forms { TCGTarget.plain false with TCG_TARGET_HAS_muluh_i32 := true }
      1 (TCGContext.fresh 4) (Machine.ofList [5, 1]) 2 0 3).2 (by decide) (by decide)
      (by decide) with
  | ⟨_, _, _, _, _, h⟩ =>
    match h (by decide) (Or.inr (Or.inl ⟨by decide, Or.inr rfl⟩)) with
    | ⟨δ, e, h1⟩ => ⟨δ, e, h1.trans (by decide)⟩
/-- C29, for the `MemOp`s whose canonical form still requests byte swapping (an 8-bit
`MemOp` loses `MO_BSWAP` in canonicalization): on a host without memory byte-swap support
`tcg_gen_qemu_ld_i32_with_checked_addr` and `tcg_gen_qemu_ld_i64_with_checked_addr` emit
exactly one memory access, a load into `val` whose descriptor keeps the access size and
carries no `MO_BSWAP` and, below 64 bits, no `MO_SIGN`, so that it delivers the bytes in
host order, zero-extended; the value left in `val` is the byte swap at the access size of
what the access delivers, sign-extended from the access size exactly when the canonical
`MemOp` is signed; this is the value of the load under the canonical `MemOp`, and the
value the same call leaves on the host that byte-swaps in the access. -/
theorem C29_swapped_load (T : TCGTarget) (s : TCGContext) (m : Machine)
    (val addr idx memop : Nat) (hB : T.TCG_TARGET_HAS_MEMORY_BSWAP = false) (hidx : idx < 16)
    (hv : val + T.w64 ≤ s.nb_temps) (ha : addr + T.aw ≤ s.nb_temps) :
    (∀ c, (tcg_canonicalize_memop T memop false false s).1 = some c → c &&& MO_BSWAP ≠ 0 →
      ∃ δ op, emitted (tcg_gen_qemu_ld_i32_with_checked_addr T val addr idx memop) s = some δ ∧
        mem_accesses δ = [op] ∧ op.opc = .qemu_ld_i32 ∧ op.args.head? = some val ∧
        op.memop &&& MO_SIZE = c &&& MO_SIZE ∧ op.memop &&& MO_BSWAP = 0 ∧
        op.memop &&& MO_SIGN = 0 ∧
        mem_ld 32 m.mem (T.ea m addr) op.memop =
          ldn m.mem (T.ea m addr) (2 ^ (c &&& MO_SIZE)) ∧
        (run δ m).regs val =
          (if c &&& MO_SIGN ≠ 0 then
            sext 32 (8 * 2 ^ (c &&& MO_SIZE))
              (bswap_size (c &&& MO_SIZE) (ldn m.mem (T.ea m addr) (2 ^ (c &&& MO_SIZE))))
           else bswap_size (c &&& MO_SIZE) (ldn m.mem (T.ea m addr) (2 ^ (c &&& MO_SIZE)))) ∧
        (run δ m).regs val = mem_ld 32 m.mem (T.ea m addr) c ∧
        ∃ δ', emitted (tcg_gen_qemu_ld_i32_with_checked_addr
            { T with TCG_TARGET_HAS_MEMORY_BSWAP := true } val addr idx memop) s = some δ' ∧
          (run δ' m).regs val = (run δ m).regs val) ∧
    (∀ c, (tcg_canonicalize_memop T memop true false s).1 = some c → c &&& MO_BSWAP ≠ 0 →
      ∃ δ op, emitted (tcg_gen_qemu_ld_i64_with_checked_addr T val addr idx memop) s = some δ ∧
        mem_accesses δ = [op] ∧
        (if T.reg64 = false ∧ c &&& MO_SIZE ≠ MO_64 then op.opc = .qemu_ld_i32
          else op.opc = .qemu_ld_i64) ∧ op.args.head? = some val ∧
        op.memop &&& MO_SIZE = c &&& MO_SIZE ∧ op.memop &&& MO_BSWAP = 0 ∧
        (c &&& MO_SIZE ≠ MO_64 → op.memop &&& MO_SIGN = 0) ∧
        mem_ld (if T.reg64 = false ∧ c &&& MO_SIZE ≠ MO_64 then 32 else 64) m.mem (T.ea m addr)
          op.memop = ldn m.mem (T.ea m addr) (2 ^ (c &&& MO_SIZE)) ∧
        (run δ m).get64 T val =
          (if c &&& MO_SIGN ≠ 0 then
            sext 64 (8 * 2 ^ (c &&& MO_SIZE))
              (bswap_size (c &&& MO_SIZE) (ldn m.mem (T.ea m addr) (2 ^ (c &&& MO_SIZE))))
           else bswap_size (c &&& MO_SIZE) (ldn m.mem (T.ea m addr) (2 ^ (c &&& MO_SIZE)))) ∧
        (run δ m).get64 T val = mem_ld 64 m.mem (T.ea m addr) c ∧
        ∃ δ', emitted (tcg_gen_qemu_ld_i64_with_checked_addr
            { T with TCG_TARGET_HAS_MEMORY_BSWAP := true } val addr idx memop) s = some δ' ∧
          (run δ' m).get64 T val = (run δ m).get64 T val) := by
  have hw1 := w64_pos T
  constructor
  · intro c hc hb
    have hc' := tcg_canonicalize_memop_all T memop false false s c hc
    have hcN : ∀ s', tcg_canonicalize_memop { T with TCG_TARGET_HAS_MEMORY_BSWAP := true }
        memop false false s' = (some c, s') := fun s' => by
      rw [tcg_canonicalize_memop_host]; exact hc' s'
    obtain ⟨hc8, hc64, hc32⟩ := canonical_ld_i32_facts T memop c _ (hc' s)
    have hsz := canonical_swap_size c hb hc8 hc64
    have hE : ¬T.TCG_TARGET_HAS_MEMORY_BSWAP = true ∧ c &&& MO_BSWAP ≠ 0 := ⟨by simp [hB], hb⟩
    obtain ⟨δ, k, e, r⟩ := (@tcg_gen_qemu_ld_i32_sem T val addr _ idx memop c
      hidx hc' (by omega) ha).2 s (le_refl _)
    obtain ⟨op, ho, h1, h2, h3⟩ :=
      accesses_emitted (tcg_gen_qemu_ld_i32_accesses T val addr idx memop c hidx hc') s δ k e
    rw [if_pos hE] at h3
    obtain ⟨d1, d2, d3, d4⟩ := ld_i32_desc_facts c hb hc32 hsz _ h3.symm
    obtain ⟨v1, v2, v3⟩ := mem_ld_emulated_32 m.mem (T.ea m addr) c op.memop hsz hc32 hb d1 d2 d3
    obtain ⟨δ', e', r'⟩ := (@tcg_gen_qemu_ld_i32_sem { T with TCG_TARGET_HAS_MEMORY_BSWAP := true }
      val addr _ idx memop c hidx hcN (by omega) ha).emitted s (le_refl _)
    have hfin : (run δ m).regs val = mem_ld 32 m.mem (T.ea m addr) c := by
      rw [(r m).2 val (by omega), Machine.set_regs_self]
    refine ⟨δ, op, emitted_of_eq e, ho, h1, h2, d1, d2, d3, v1, ?_, hfin, δ', e', ?_⟩
    · rw [hfin, v3, v1]
    · rw [hfin, (r' m).2 val (by omega), Machine.set_regs_self]
      rfl
  · intro c hc hb
    have hc' := tcg_canonicalize_memop_all T memop true false s c hc
    have hcN : ∀ s', tcg_canonicalize_memop { T with TCG_TARGET_HAS_MEMORY_BSWAP := true }
        memop true false s' = (some c, s') := fun s' => by
      rw [tcg_canonicalize_memop_host]; exact hc' s'
    obtain ⟨hal, hcsz, hcsg, hc8, hce⟩ := canonical_ld_i64_facts T memop c _ (hc' s)
    have h8 : c &&& MO_SIZE ≠ MO_8 := fun h => hb (hc8 h)
    obtain ⟨δ, k, e, r⟩ := (@tcg_gen_qemu_ld_i64_sem T val addr _ idx memop c
      hidx hc' hv ha).2 s (le_refl _)
    obtain ⟨op, ho, h1, h2, d1, d2, d3⟩ :=
      accesses_emitted (tcg_gen_qemu_ld_i64_accesses T val addr idx memop c hidx hc' hB hb)
        s δ k e
    obtain ⟨v1, v1', v2, v3⟩ := mem_ld_emulated_64 m.mem (T.ea m addr) c op.memop h8 hb d1 d2 d3
    obtain ⟨δ', e', r'⟩ := (@tcg_gen_qemu_ld_i64_sem { T with TCG_TARGET_HAS_MEMORY_BSWAP := true }
      val addr _ idx memop c hidx hcN hv ha).emitted s (le_refl _)
    have hfin : (run δ m).get64 T val = mem_ld 64 m.mem (T.ea m addr) c := by
      rw [(r m).get64 T hv, Machine.get64_set64_self]
      exact Nat.mod_eq_of_lt (mem_ld_lt _ _ _ _)
    refine ⟨δ, op, emitted_of_eq e, ho, h1, h2, d1, d2, d3, ?_, ?_, hfin, δ', e', ?_⟩
    · split
      · rename_i h; exact v1' h.2
      · exact v1
    · rw [hfin, v3, v1]
    · rw [hfin]
      have := (r' m).get64 { T with TCG_TARGET_HAS_MEMORY_BSWAP := true } hv
      exact this.trans ((Machine.get64_set64_self _ _ _ _).trans
        (Nat.mod_eq_of_lt (mem_ld_lt _ _ _ _)))
/-- C29 at a concrete input: on the 64-bit host without optional ops the byte-swapped signed
16-bit load from the bytes `0x80, 0x01` leaves `0xffff8001`. -/
theorem C29_swapped_load_witness :
    ∃ δ, emitted (tcg_gen_qemu_ld_i32_with_checked_addr (TCGTarget.plain true) 0 1 0
        (MO_SW ||| MO_BSWAP)) (TCGContext.fresh 2) = some δ ∧
      (run δ ⟨fun _ => 0, fun a => if a = 0 then 0x80 else 1⟩).regs 0 = 0xffff8001 :=
  match (C29_swapped_load (TCGTarget.plain true) (TCGContext.fresh 2)
      ⟨fun _ => 0, fun a => if a = 0 then 0x80 else 1⟩ 0 1 0 (MO_SW ||| MO_BSWAP) rfl
      (by decide) (by decide) (by decide)).1 (MO_SW ||| MO_BSWAP) (by decide) (by decide) with
  | ⟨δ, _, e, _, _, _, _, _, _, _, _, h, _⟩ => ⟨δ, e, h.trans (by decide)⟩

/-- C29 fails for an 8-bit `MemOp` with `MO_BSWAP`: on the host without memory byte-swap
support the signed byte load with `MO_BSWAP` set canonicalizes to `MO_SB`, and the emitted
ops are the access alone, with the signed descriptor `MO_SB` and no byte swap after it. -/
theorem C29_byte_load_counterexample :
    (TCGTarget.plain true).TCG_TARGET_HAS_MEMORY_BSWAP = false ∧
    (MO_SB ||| MO_BSWAP) &&& MO_BSWAP ≠ 0 ∧
    (tcg_canonicalize_memop (TCGTarget.plain true) (MO_SB ||| MO_BSWAP) false false
      (TCGContext.fresh 2)).1 = some MO_SB ∧
    emitted (tcg_gen_qemu_ld_i32_with_checked_addr (TCGTarget.plain true) 0 1 0
      (MO_SB ||| MO_BSWAP)) (TCGContext.fresh 2) =
      some [⟨.qemu_ld_i32, [0, 1, make_memop_idx MO_SB 0]⟩] ∧
    (⟨.qemu_ld_i32, [0, 1, make_memop_idx MO_SB 0]⟩ : TCGOp).memop = MO_SB ∧
    MO_SB &&& MO_SIZE < MO_64 ∧ MO_SB &&& MO_SIGN ≠ 0 := by
  decide

/-- C35 fails as stated: on the 32-bit host without optional ops `tcg_gen_shl_i64` by a
non-constant amount emits one call of the run-time routine `shl_i64` and nothing else: no
32-bit shift and no selection among regimes is synthesized inline. -/
theorem C35_shift_helper_counterexample :
    (TCGTarget.plain false).reg64 = false ∧
    emitted (tcg_gen_shl_i64 (TCGTarget.plain false) 0 2 4) (TCGContext.fresh 6) =
      some [⟨.call, [Helper.shl_i64.toCtorIdx, 0, 1, 2, 3, 4, 5]⟩] ∧
    emitted (tcg_gen_shr_i64 (TCGTarget.plain false) 0 2 4) (TCGContext.fresh 6) =
      some [⟨.call, [Helper.shr_i64.toCtorIdx, 0, 1, 2, 3, 4, 5]⟩] ∧
    emitted (tcg_gen_sar_i64 (TCGTarget.plain false) 0 2 4) (TCGContext.fresh 6) =
      some [⟨.call, [Helper.sar_i64.toCtorIdx, 0, 1, 2, 3, 4, 5]⟩] := by
  decide

/-- C35, amended: on a 32-bit host `tcg_gen_shl_i64`, `tcg_gen_shr_i64` and
`tcg_gen_sar_i64` by a non-constant amount each emit exactly one op, the call of the
run-time routine `shl_i64`, `shr_i64`, `sar_i64` on the low/high pairs of the result, the
value and the amount, and that call leaves the 64-bit shift of the value by the amount in
the result pair (for the left shift truncated to 64 bits, for the arithmetic right shift
with the sign filled in). -/
theorem C35_shift_by_helper (T : TCGTarget) (hT : T.reg64 = false) (s : TCGContext)
    (m : Machine) (r a b : Nat) (hr : r + 2 ≤ s.nb_temps) (ha : a + 2 ≤ s.nb_temps)
    (hb : b + 2 ≤ s.nb_temps) :
    (emitted (tcg_gen_shl_i64 T r a b) s =
        some [⟨.call, [Helper.shl_i64.toCtorIdx, r, r + 1, a, a + 1, b, b + 1]⟩] ∧
      (run [⟨.call, [Helper.shl_i64.toCtorIdx, r, r + 1, a, a + 1, b, b + 1]⟩] m).get64 T r =
        (m.get64 T a <<< m.get64 T b) % 2 ^ 64) ∧
    (emitted (tcg_gen_shr_i64 T r a b) s =
        some [⟨.call, [Helper.shr_i64.toCtorIdx, r, r + 1, a, a + 1, b, b + 1]⟩] ∧
      (run [⟨.call, [Helper.shr_i64.toCtorIdx, r, r + 1, a, a + 1, b, b + 1]⟩] m).get64 T r =
        m.get64 T a >>> m.get64 T b) ∧
    (emitted (tcg_gen_sar_i64 T r a b) s =
        some [⟨.call, [Helper.sar_i64.toCtorIdx, r, r + 1, a, a + 1, b, b + 1]⟩] ∧
      (run [⟨.call, [Helper.sar_i64.toCtorIdx, r, r + 1, a, a + 1, b, b + 1]⟩] m).get64 T r =
        sar 64 (m.get64 T a) (m.get64 T b)) := by
  have hw := w64_of_reg32 hT
  have e1 : emitted (tcg_gen_shl_i64 T r a b) s =
      some [⟨.call, [Helper.shl_i64.toCtorIdx, r, r + 1, a, a + 1, b, b + 1]⟩] := by
    simp [emitted, tcg_gen_shl_i64, hT, gen_helper_i64, tcg_gen_callN, tcg_emit_op, i64_args,
      TCGV_LOW, TCGV_HIGH]
  have e2 : emitted (tcg_gen_shr_i64 T r a b) s =
      some [⟨.call, [Helper.shr_i64.toCtorIdx, r, r + 1, a, a + 1, b, b + 1]⟩] := by
    simp [emitted, tcg_gen_shr_i64, hT, gen_helper_i64, tcg_gen_callN, tcg_emit_op, i64_args,
      TCGV_LOW, TCGV_HIGH]
  have e3 : emitted (tcg_gen_sar_i64 T r a b) s =
      some [⟨.call, [Helper.sar_i64.toCtorIdx, r, r + 1, a, a + 1, b, b + 1]⟩] := by
    simp [emitted, tcg_gen_sar_i64, hT, gen_helper_i64, tcg_gen_callN, tcg_emit_op, i64_args,
      TCGV_LOW, TCGV_HIGH]
  obtain ⟨δ1, h1, r1⟩ := (tcg_gen_shl_i64_sem T (r := r) (a := a) (b := b) (n := s.nb_temps)
    (by omega) (by omega)).emitted s (le_refl _)
  obtain ⟨δ2, h2, r2⟩ := (tcg_gen_shr_i64_sem T (r := r) (a := a) (b := b) (n := s.nb_temps)
    (by omega) (by omega)).emitted s (le_refl _)
  obtain ⟨δ3, h3, r3⟩ := (tcg_gen_sar_i64_sem T (r := r) (a := a) (b := b) (n := s.nb_temps)
    (by omega) (by omega)).emitted s (le_refl _)
  rw [e1] at h1
  rw [e2] at h2
  rw [e3] at h3
  cases h1
  cases h2
  cases h3
  refine ⟨⟨e1, ?_⟩, ⟨e2, ?_⟩, ⟨e3, ?_⟩⟩
  · rw [(r1 m).get64 T (by omega), Machine.get64_set64_self, Nat.mod_mod]
  · rw [(r2 m).get64 T (by omega), Machine.get64_set64_self]
    exact Nat.mod_eq_of_lt (shr_lt_two_pow64 _ _ (Machine.get64_lt T m a))
  · rw [(r3 m).get64 T (by omega), Machine.get64_set64_self]
    exact Nat.mod_eq_of_lt (Nat.mod_lt _ (by norm_num))

/-- C35 at a concrete input: on the 32-bit host the call shifts `0x100000001` left by 4. -/
theorem C35_shift_by_helper_witness :
    (run [⟨.call, [Helper.shl_i64.toCtorIdx, 0, 1, 2, 3, 4, 5]⟩]
      (Machine.ofList [0, 0, 1, 1, 4, 0])).get64 (TCGTarget.plain false) 0 = 0x1000000010 :=
  ((C35_shift_by_helper (TCGTarget.plain false) rfl (TCGContext.fresh 6)
    (Machine.ofList [0, 0, 1, 1, 4, 0]) 0 2 4 (by decide) (by decide) (by decide)).1.2).trans
    (by decide)

/-- C36: whatever the host offers for the conditional move (the native op, the mask
synthesis from a negated comparison, or on a 32-bit host the per-word selection on the
double-word comparison), `tcg_gen_smin_i32` and `tcg_gen_smax_i32` leave in `ret` the 32-bit
pattern whose signed value is the minimum, resp. the maximum, of the signed values of `a` and
`b`, `tcg_gen_umin_i32` and `tcg_gen_umax_i32` the minimum, resp. the maximum, of their
unsigned values, and `tcg_gen_smin_i64`, `tcg_gen_smax_i64`, `tcg_gen_umin_i64`,
`tcg_gen_umax_i64` do the same on 64-bit values. -/
theorem C36_min_max (T : TCGTarget) (s : TCGContext) (m : Machine) (r a b : Nat)
    (hr : r + T.w64 ≤ s.nb_temps) (ha : a + T.w64 ≤ s.nb_temps) (hb : b + T.w64 ≤ s.nb_temps)
    (hra : r = a ∨ r + T.w64 ≤ a ∨ a + T.w64 ≤ r)
    (hrb : r = b ∨ r + T.w64 ≤ b ∨ b + T.w64 ≤ r) :
    (∃ δ, emitted (tcg_gen_smin_i32 T r a b) s = some δ ∧ (run δ m).regs r < 2 ^ 32 ∧
      toInt 32 ((run δ m).regs r) = min (toInt 32 (m.regs a)) (toInt 32 (m.regs b))) ∧
    (∃ δ, emitted (tcg_gen_smax_i32 T r a b) s = some δ ∧ (run δ m).regs r < 2 ^ 32 ∧
      toInt 32 ((run δ m).regs r) = max (toInt 32 (m.regs a)) (toInt 32 (m.regs b))) ∧
    (∃ δ, emitted (tcg_gen_umin_i32 T r a b) s = some δ ∧
      (run δ m).regs r = min (m.regs a % 2 ^ 32) (m.regs b % 2 ^ 32)) ∧
    (∃ δ, emitted (tcg_gen_umax_i32 T r a b) s = some δ ∧
      (run δ m).regs r = max (m.regs a % 2 ^ 32) (m.regs b % 2 ^ 32)) ∧
    (∃ δ, emitted (tcg_gen_smin_i64 T r a b) s = some δ ∧
      toInt 64 ((run δ m).get64 T r) = min (toInt 64 (m.get64 T a)) (toInt 64 (m.get64 T b))) ∧
    (∃ δ, emitted (tcg_gen_smax_i64 T r a b) s = some δ ∧
      toInt 64 ((run δ m).get64 T r) = max (toInt 64 (m.get64 T a)) (toInt 64 (m.get64 T b))) ∧
    (∃ δ, emitted (tcg_gen_umin_i64 T r a b) s = some δ ∧
      (run δ m).get64 T r = min (m.get64 T a) (m.get64 T b)) ∧
    (∃ δ, emitted (tcg_gen_umax_i64 T r a b) s = some δ ∧
      (run δ m).get64 T r = max (m.get64 T a) (m.get64 T b)) := by
  have hw1 := w64_pos T
  have h32 : ∀ (cond : TCGCond) (v1 v2 : Nat), v1 < s.nb_temps → v2 < s.nb_temps →
      ∃ δ, emitted (tcg_gen_movcond_i32 T cond r a b v1 v2) s = some δ ∧
        (run δ m).regs r = (if cond.eval 32 (m.regs a) (m.regs b) then m.regs v1 % 2 ^ 32
          else m.regs v2 % 2 ^ 32) := by
    intro cond v1 v2 h1 h2
    obtain ⟨δ, e, h⟩ := (@tcg_gen_movcond_i32_sem T r a b _ _ s.nb_temps
      cond (by omega) (by omega) h1 h2 (by omega)).emitted s (le_refl _)
    exact ⟨δ, e, by rw [(h m).2 r (by omega), Machine.set_regs_self]⟩
  have h64 : ∀ (cond : TCGCond) (v1 v2 : Nat), v1 + T.w64 ≤ s.nb_temps →
      v2 + T.w64 ≤ s.nb_temps → (r = v1 ∨ r + T.w64 ≤ v1 ∨ v1 + T.w64 ≤ r) →
      (r = v2 ∨ r + T.w64 ≤ v2 ∨ v2 + T.w64 ≤ r) →
      ∃ δ, emitted (tcg_gen_movcond_i64 T cond r a b v1 v2) s = some δ ∧
        (run δ m).get64 T r = (if cond.eval 64 (m.get64 T a) (m.get64 T b) then m.get64 T v1
          else m.get64 T v2) := by
    intro cond v1 v2 h1 h2 h3 h4
    obtain ⟨δ, e, h⟩ := (@tcg_gen_movcond_i64_sem T r a b _ _ s.nb_temps
      cond ha hb h1 h2 hr h3 h4).emitted s (le_refl _)
    refine ⟨δ, e, ?_⟩
    rw [(h m).get64 T hr, Machine.get64_set64_self]
    split
    · exact Nat.mod_eq_of_lt (Machine.get64_lt T m v1)
    · exact Nat.mod_eq_of_lt (Machine.get64_lt T m v2)
  have ga := Nat.mod_eq_of_lt (Machine.get64_lt T m a)
  have gb := Nat.mod_eq_of_lt (Machine.get64_lt T m b)
  refine ⟨?_, ?_, ?_, ?_, ?_, ?_, ?_, ?_⟩
  · obtain ⟨δ, e, h⟩ := h32 .LT a b (by omega) (by omega)
    refine ⟨δ, e, ?_, ?_⟩
    · rw [h]; split <;> exact Nat.mod_lt _ (by norm_num)
    · rw [h]; exact (minmax_sel_signed 32 _ _).1
  · obtain ⟨δ, e, h⟩ := h32 .LT b a (by omega) (by omega)
    refine ⟨δ, e, ?_, ?_⟩
    · rw [h]; split <;> exact Nat.mod_lt _ (by norm_num)
    · rw [h]; exact (minmax_sel_signed 32 _ _).2
  · obtain ⟨δ, e, h⟩ := h32 .LTU a b (by omega) (by omega)
    exact ⟨δ, e, by rw [h]; exact (minmax_sel_unsigned 32 _ _).1⟩
  · obtain ⟨δ, e, h⟩ := h32 .LTU b a (by omega) (by omega)
    exact ⟨δ, e, by rw [h]; exact (minmax_sel_unsigned 32 _ _).2⟩
  · obtain ⟨δ, e, h⟩ := h64 .LT a b ha hb hra hrb
    refine ⟨δ, e, ?_⟩
    have := (minmax_sel_signed 64 (m.get64 T a) (m.get64 T b)).1
    rw [ga, gb] at this
    rw [h]; exact this
  · obtain ⟨δ, e, h⟩ := h64 .LT b a hb ha hrb hra
    refine ⟨δ, e, ?_⟩
    have := (minmax_sel_signed 64 (m.get64 T a) (m.get64 T b)).2
    rw [ga, gb] at this
    rw [h]; exact this
  · obtain ⟨δ, e, h⟩ := h64 .LTU a b ha hb hra hrb
    refine ⟨δ, e, ?_⟩
    have := (minmax_sel_unsigned 64 (m.get64 T a) (m.get64 T b)).1
    rw [ga, gb] at this
    rw [h]; exact this
  · obtain ⟨δ, e, h⟩ := h64 .LTU b a hb ha hrb hra
    refine ⟨δ, e, ?_⟩
    have := (minmax_sel_unsigned 64 (m.get64 T a) (m.get64 T b)).2
    rw [ga, gb] at this
    rw [h]; exact this

/-- C36 at a concrete input: on the 32-bit host without optional ops the signed minimum of
`0xffffffff` (that is, -1) and 5 is -1. -/
theorem C36_min_max_witness :
    ∃ δ, emitted (tcg_gen_smin_i32 (TCGTarget.plain false) 0 2 4) (TCGContext.fresh 6) = some δ ∧
      toInt 32 ((run δ (Machine.ofList [0, 0, 0xffffffff, 0, 5, 0])).regs 0) = -1 :=
  match (C36_min_max (TCGTarget.plain false) (TCGContext.fresh 6)
      (Machine.ofList [0, 0, 0xffffffff, 0, 5, 0]) 0 2 4 (by decide) (by decide) (by decide)
      (by decide) (by decide)).1 with
  | ⟨δ, e, _, h⟩ => ⟨δ, e, h.trans (by decide)⟩

/-- C37: `tcg_gen_abs_i32` and `tcg_gen_abs_i64` leave in `ret` the value `(a XOR m) - m`
modulo `2^W`, `m` being `a` shifted right arithmetically by `W - 1`; this is `a` when `a` is
non-negative as a signed `W`-bit value (`a < 2^(W-1)`) and `2^W - a`, the negation modulo
`2^W`, when it is negative; the result is non-negative as a signed value (below `2^(W-1)`)
for every `a` but the minimum signed value `2^(W-1)`, for which it is `2^(W-1)` again. -/
theorem C37_abs_value (T : TCGTarget) (s : TCGContext) (m : Machine) (r a : Nat)
    (hr : r + T.w64 ≤ s.nb_temps) (ha : a + T.w64 ≤ s.nb_temps)
    (hra : r = a ∨ r + T.w64 ≤ a ∨ a + T.w64 ≤ r) :
    (∃ δ, emitted (tcg_gen_abs_i32 r a) s = some δ ∧
      (run δ m).regs r = ((m.regs a % 2 ^ 32 ^^^ sar 32 (m.regs a % 2 ^ 32) 31) + 2 ^ 32 -
        sar 32 (m.regs a % 2 ^ 32) 31) % 2 ^ 32 ∧
      (m.regs a % 2 ^ 32 < 2 ^ 31 → (run δ m).regs r = m.regs a % 2 ^ 32) ∧
      (2 ^ 31 ≤ m.regs a % 2 ^ 32 → (run δ m).regs r = 2 ^ 32 - m.regs a % 2 ^ 32) ∧
      (m.regs a % 2 ^ 32 ≠ 2 ^ 31 → (run δ m).regs r < 2 ^ 31) ∧
      (m.regs a % 2 ^ 32 = 2 ^ 31 → (run δ m).regs r = 2 ^ 31)) ∧
    (∃ δ, emitted (tcg_gen_abs_i64 T r a) s = some δ ∧
      (run δ m).get64 T r = ((m.get64 T a ^^^ sar 64 (m.get64 T a) 63) + 2 ^ 64 -
        sar 64 (m.get64 T a) 63) % 2 ^ 64 ∧
      (m.get64 T a < 2 ^ 63 → (run δ m).get64 T r = m.get64 T a) ∧
      (2 ^ 63 ≤ m.get64 T a → (run δ m).get64 T r = 2 ^ 64 - m.get64 T a) ∧
      (m.get64 T a ≠ 2 ^ 63 → (run δ m).get64 T r < 2 ^ 63) ∧
      (m.get64 T a = 2 ^ 63 → (run δ m).get64 T r = 2 ^ 63)) := by
  have hw1 := w64_pos T
  constructor
  · obtain ⟨δ, e, h⟩ := (tcg_gen_abs_i32_sem (r := r) (a := a) (n := s.nb_temps) (by omega)
      (by omega)).emitted s (le_refl _)
    have hv := (h m).2 r (by omega)
    rw [Machine.set_regs_self] at hv
    have hx : m.regs a % 2 ^ 32 < 2 ^ 32 := Nat.mod_lt _ (by norm_num)
    have ha' := abs_val_32 _ hx
    rw [← hv] at ha'
    refine ⟨δ, e, hv, fun h1 => ?_, fun h1 => ?_, fun h1 => ?_, fun h1 => ?_⟩
    · rw [ha', if_pos h1]
    · rw [ha', if_neg (by omega)]
    · rw [ha']
      split
      · assumption
      · norm_num only [] at *
        omega
    · rw [ha', h1]
      norm_num
  · obtain ⟨δ, e, h⟩ := (tcg_gen_abs_i64_sem T (r := r) (a := a) (n := s.nb_temps) ha hr
      hra).emitted s (le_refl _)
    have hv := (h m).get64 T hr
    rw [Machine.get64_set64_self, Nat.mod_mod] at hv
    have hx := Machine.get64_lt T m a
    have ha' := abs_val_64 _ hx
    rw [← hv] at ha'
    refine ⟨δ, e, hv, fun h1 => ?_, fun h1 => ?_, fun h1 => ?_, fun h1 => ?_⟩
    · rw [ha', if_pos h1]
    · rw [ha', if_neg (by omega)]
    · rw [ha']
      split
      · assumption
      · norm_num only [] at *
        omega
    · rw [ha', h1]
      norm_num

/-- C37 at a concrete input: the absolute value of `0xfffffffb` (that is, -5) is 5. -/
theorem C37_abs_value_witness :
    ∃ δ, emitted (tcg_gen_abs_i32 0 2) (TCGContext.fresh 4) = some δ ∧
      (run δ (Machine.ofList [0, 0, 0xfffffffb, 0])).regs 0 = 5 :=
  match (C37_abs_value (TCGTarget.plain false) (TCGContext.fresh 4)
      (Machine.ofList [0, 0, 0xfffffffb, 0]) 0 2 (by decide) (by decide) (by decide)).1 with
  | ⟨δ, e, h, _⟩ => ⟨δ, e, h.trans (by decide)⟩

/-- C38: for every host, every offset `ofs` with `ofs ≤ W` and every pair of operands,
`tcg_gen_extract2_i32` and `tcg_gen_extract2_i64` emit ops (on whichever path the host and
the arguments select: move, rotate, native `extract2`, or shift and deposit) that leave in
`ret` the low `W` bits of `(ah * 2^W + al) >> ofs`; in particular `al` for `ofs = 0`, `ah`
for `ofs = W`, and `al` rotated right by `ofs` when both operands are the same temporary. -/
theorem C38_extract2_value (T : TCGTarget) (s : TCGContext) (m : Machine) (r al ah ofs : Nat)
    (hr : r + T.w64 ≤ s.nb_temps) (hl : al + T.w64 ≤ s.nb_temps)
    (hh : ah + T.w64 ≤ s.nb_temps)
    (hrl : r = al ∨ r + T.w64 ≤ al ∨ al + T.w64 ≤ r)
    (hrh : r = ah ∨ r + T.w64 ≤ ah ∨ ah + T.w64 ≤ r) :
    (ofs ≤ 32 → ∃ δ, emitted (tcg_gen_extract2_i32 T r al ah ofs) s = some δ ∧
      (run δ m).regs r =
        (((m.regs ah % 2 ^ 32) * 2 ^ 32 + m.regs al % 2 ^ 32) >>> ofs) % 2 ^ 32 ∧
      (ofs = 0 → (run δ m).regs r = m.regs al % 2 ^ 32) ∧
      (ofs = 32 → (run δ m).regs r = m.regs ah % 2 ^ 32) ∧
      (al = ah → ofs < 32 → (run δ m).regs r = rotr 32 (m.regs al % 2 ^ 32) ofs)) ∧
    (ofs ≤ 64 → ∃ δ, emitted (tcg_gen_extract2_i64 T r al ah ofs) s = some δ ∧
      (run δ m).get64 T r = ((m.get64 T ah * 2 ^ 64 + m.get64 T al) >>> ofs) % 2 ^ 64 ∧
      (ofs = 0 → (run δ m).get64 T r = m.get64 T al) ∧
      (ofs = 64 → (run δ m).get64 T r = m.get64 T ah) ∧
      (al = ah → ofs < 64 → (run δ m).get64 T r = rotr 64 (m.get64 T al) ofs)) := by
  have hw1 := w64_pos T
  constructor
  · intro ho
    obtain ⟨δ, e, h⟩ := (tcg_gen_extract2_i32_sem T (r := r) (u := al) (v := ah)
      (n := s.nb_temps) (o := ofs) (by omega) (by omega) (by omega) ho).emitted s (le_refl _)
    have hv := (h m).2 r (by omega)
    rw [Machine.set_regs_self] at hv
    have e1 : extract2 32 (m.regs al) (m.regs ah) ofs =
        (((m.regs ah % 2 ^ 32) * 2 ^ 32 + m.regs al % 2 ^ 32) >>> ofs) % 2 ^ 32 := by
      unfold extract2
      rw [Nat.add_comm]
    have e2 : extract2 32 (m.regs al) (m.regs ah) ofs =
        extract2 32 (m.regs al % 2 ^ 32) (m.regs ah % 2 ^ 32) ofs := by
      unfold extract2
      rw [Nat.mod_mod, Nat.mod_mod]
    refine ⟨δ, e, hv.trans e1, fun h0 => ?_, fun h0 => ?_, fun h0 h1 => ?_⟩
    · rw [hv, e2, h0]
      exact (extract2_32_zero _ _ (Nat.mod_lt _ (by norm_num))).symm
    · rw [hv, e2, h0]
      exact (extract2_32_full _ _ (Nat.mod_lt _ (by norm_num))).symm
    · rw [hv, e2, ← h0]
      exact (extract2_32_same _ _ h1).symm
  · intro ho
    obtain ⟨δ, e, h⟩ := (tcg_gen_extract2_i64_sem T (r := r) (u := al) (v := ah)
      (n := s.nb_temps) (o := ofs) hl hh hr ho hrl hrh).emitted s (le_refl _)
    have hv := (h m).get64 T hr
    rw [Machine.get64_set64_self, Nat.mod_eq_of_lt (extract2_lt _ _ _ _)] at hv
    have hx := Machine.get64_lt T m al
    have hy := Machine.get64_lt T m ah
    have e1 : extract2 64 (m.get64 T al) (m.get64 T ah) ofs =
        ((m.get64 T ah * 2 ^ 64 + m.get64 T al) >>> ofs) % 2 ^ 64 := by
      unfold extract2
      rw [Nat.mod_eq_of_lt hx, Nat.mod_eq_of_lt hy, Nat.add_comm]
    refine ⟨δ, e, hv.trans e1, fun h0 => ?_, fun h0 => ?_, fun h0 h1 => ?_⟩
    · rw [hv, h0]
      exact (extract2_64_zero _ _ hx).symm
    · rw [hv, h0]
      exact (extract2_64_full _ _ hy).symm
    · rw [hv, ← h0]
      exact (extract2_64_same _ _ h1).symm

/-- C38 at a concrete input: on a host without `extract2`, 32 bits taken from
`0x89abcdef:0x01234567` at offset 8 are `0xef012345`. -/
theorem C38_extract2_value_witness :
    ∃ δ, emitted (tcg_gen_extract2_i32 (TCGTarget.plain false) 0 2 4 8) (TCGContext.fresh 6)
        = some δ ∧
      (run δ (Machine.ofList [0, 0, 0x01234567, 0, 0x89abcdef, 0])).regs 0 = 0xef012345 :=
  match (C38_extract2_value (TCGTarget.plain false) (TCGContext.fresh 6)
      (Machine.ofList [0, 0, 0x01234567, 0, 0x89abcdef, 0]) 0 2 4 8 (by decide) (by decide)
      (by decide) (by decide) (by decide)).1 (by decide) with
  | ⟨δ, e, h, _⟩ => ⟨δ, e, h.trans (by decide)⟩

/-- C39: on a host without native rotates, for every run-time amount `n` below `W` the ops
that `tcg_gen_rotl_iW` and `tcg_gen_rotr_iW` emit (a shift by `n` OR-ed with the opposite
shift by `W - n`) leave in `ret` the value `x` rotated by `n`; the two primitive shifts they
perform both have their amount in `[0, W)` when `0 < n`, but for `n = 0` the opposite shift
is performed with the amount `W`, which is outside that range. -/
theorem C39_rotate_fallback (T : TCGTarget) (s : TCGContext) (m : Machine) (r a b : Nat)
    (h32 : T.TCG_TARGET_HAS_rot_i32 = false) (h64 : T.TCG_TARGET_HAS_rot_i64 = false)
    (hr : r + T.w64 ≤ s.nb_temps) (ha : a + T.w64 ≤ s.nb_temps)
    (hb : b + T.w64 ≤ s.nb_temps) :
    (∃ δ, emitted (tcg_gen_rotl_i32 T r a b) s = some δ ∧
      (m.regs b % 2 ^ 32 < 32 →
        (run δ m).regs r = rotl 32 (m.regs a % 2 ^ 32) (m.regs b % 2 ^ 32)) ∧
      (0 < m.regs b % 2 ^ 32 → m.regs b % 2 ^ 32 < 32 → shifts_in_range δ m = true) ∧
      (m.regs b % 2 ^ 32 = 0 → shifts_in_range δ m = false)) ∧
    (∃ δ, emitted (tcg_gen_rotr_i32 T r a b) s = some δ ∧
      (m.regs b % 2 ^ 32 < 32 →
        (run δ m).regs r = rotr 32 (m.regs a % 2 ^ 32) (m.regs b % 2 ^ 32)) ∧
      (0 < m.regs b % 2 ^ 32 → m.regs b % 2 ^ 32 < 32 → shifts_in_range δ m = true) ∧
      (m.regs b % 2 ^ 32 = 0 → shifts_in_range δ m = false)) ∧
    (∃ δ, emitted (tcg_gen_rotl_i64 T r a b) s = some δ ∧
      (m.get64 T b < 64 → (run δ m).get64 T r = rotl 64 (m.get64 T a) (m.get64 T b)) ∧
      (0 < m.get64 T b → m.get64 T b < 64 → shifts_in_range δ m = true) ∧
      (m.get64 T b = 0 → shifts_in_range δ m = false)) ∧
    (∃ δ, emitted (tcg_gen_rotr_i64 T r a b) s = some δ ∧
      (m.get64 T b < 64 → (run δ m).get64 T r = rotr 64 (m.get64 T a) (m.get64 T b)) ∧
      (0 < m.get64 T b → m.get64 T b < 64 → shifts_in_range δ m = true) ∧
      (m.get64 T b = 0 → shifts_in_range δ m = false)) := by
  have hw1 := w64_pos T
  have hx32 : m.regs a % 2 ^ 32 < 2 ^ 32 := Nat.mod_lt _ (by norm_num)
  have hx64 := Machine.get64_lt T m a
  have key32 : ∀ n, n < 32 → (32 + 2 ^ 32 - n) % 2 ^ 32 = 32 - n := by
    intro n hn
    rw [subf_small 32 n (by norm_num) (by omega)]
    exact Nat.mod_eq_of_lt (by norm_num only []; omega)
  have key64 : ∀ n, n < 64 → (64 + 2 ^ 64 - n) % 2 ^ 64 = 64 - n := by
    intro n hn
    rw [subf_small 64 n (by norm_num) (by omega)]
    exact Nat.mod_eq_of_lt (by norm_num only []; omega)
  refine ⟨?_, ?_, ?_, ?_⟩
  · obtain ⟨δ, k, e, hA⟩ := (tcg_gen_rotl_i32_sem_fallback T (r := r) (a := a) (b := b)
      (n := s.nb_temps) h32 (by omega) (by omega)).2 s (le_refl _)
    obtain ⟨δ', k', e', hS⟩ := tcg_gen_rotl_i32_shifts T (r := r) (a := a) (b := b)
      (n := s.nb_temps) h32 (by omega) (by omega) s (le_refl _)
    have hδ : δ' = δ := by
      rw [e] at e'
      exact (TCGContext.extend_ops_inj (congrArg Prod.snd e')).symm
    subst hδ
    refine ⟨δ', emitted_of_eq e, fun hn => ?_, fun h0 hn => ?_, fun h0 => ?_⟩
    · have hv := (hA m).2 r (by omega)
      simp only [Machine.set_regs_self, key32 _ hn] at hv
      rw [hv]
      exact rotl_eq_shifts 32 _ _ hx32 hn
    · rw [hS]
      simp only [key32 _ hn, Bool.and_eq_true, decide_eq_true_eq]
      omega
    · rw [hS]
      simp only [h0]
      decide
  · obtain ⟨δ, k, e, hA⟩ := (tcg_gen_rotr_i32_sem_fallback T (r := r) (a := a) (b := b)
      (n := s.nb_temps) h32 (by omega) (by omega)).2 s (le_refl _)
    obtain ⟨δ', k', e', hS⟩ := tcg_gen_rotr_i32_shifts T (r := r) (a := a) (b := b)
      (n := s.nb_temps) h32 (by omega) (by omega) s (le_refl _)
    have hδ : δ' = δ := by
      rw [e] at e'
      exact (TCGContext.extend_ops_inj (congrArg Prod.snd e')).symm
    subst hδ
    refine ⟨δ', emitted_of_eq e, fun hn => ?_, fun h0 hn => ?_, fun h0 => ?_⟩
    · have hv := (hA m).2 r (by omega)
      simp only [Machine.set_regs_self, key32 _ hn] at hv
      rw [hv]
      exact rotr_eq_shifts 32 _ _ hx32 hn
    · rw [hS]
      simp only [key32 _ hn, Bool.and_eq_true, decide_eq_true_eq]
      omega
    · rw [hS]
      simp only [h0]
      decide
  · obtain ⟨δ, k, e, hA⟩ := (tcg_gen_rotl_i64_sem_fallback T (r := r) (a := a) (b := b)
      (n := s.nb_temps) h64 ha hb hr).2 s (le_refl _)
    obtain ⟨δ', k', e', hS⟩ := tcg_gen_rotl_i64_shifts T (r := r) (a := a) (b := b)
      (n := s.nb_temps) h64 ha hb hr s (le_refl _)
    have hδ : δ' = δ := by
      rw [e] at e'
      exact (TCGContext.extend_ops_inj (congrArg Prod.snd e')).symm
    subst hδ
    refine ⟨δ', emitted_of_eq e, fun hn => ?_, fun h0 hn => ?_, fun h0 => ?_⟩
    · have hv := (hA m).get64 T hr
      simp only [Machine.get64_set64_self, key64 _ hn] at hv
      rw [hv, rotl_eq_shifts 64 _ _ hx64 hn]
      exact Nat.mod_eq_of_lt (rotl_lt _ _ _)
    · rw [hS]
      simp only [key64 _ hn, Bool.and_eq_true, decide_eq_true_eq]
      omega
    · rw [hS]
      simp only [h0]
      decide
  · obtain ⟨δ, k, e, hA⟩ := (tcg_gen_rotr_i64_sem_fallback T (r := r) (a := a) (b := b)
      (n := s.nb_temps) h64 ha hb hr).2 s (le_refl _)
    obtain ⟨δ', k', e', hS⟩ := tcg_gen_rotr_i64_shifts T (r := r) (a := a) (b := b)
      (n := s.nb_temps) h64 ha hb hr s (le_refl _)
    have hδ : δ' = δ := by
      rw [e] at e'
      exact (TCGContext.extend_ops_inj (congrArg Prod.snd e')).symm
    subst hδ
    refine ⟨δ', emitted_of_eq e, fun hn => ?_, fun h0 hn => ?_, fun h0 => ?_⟩
    · have hv := (hA m).get64 T hr
      simp only [Machine.get64_set64_self, key64 _ hn] at hv
      rw [hv, rotr_eq_shifts 64 _ _ hx64 hn]
      exact Nat.mod_eq_of_lt (rotr_lt _ _ _)
    · rw [hS]
      simp only [key64 _ hn, Bool.and_eq_true, decide_eq_true_eq]
      omega
    · rw [hS]
      simp only [h0]
      decide

/-- C39 at the failing input: rotating `0x80000001` left by the run-time amount 0 on a host
without rotates yields `0x80000001`, but the ops emitted shift right by `32 - 0 = 32`. -/
theorem C39_rotate_fallback_witness :
    ∃ δ, emitted (tcg_gen_rotl_i32 (TCGTarget.plain false) 0 2 4) (TCGContext.fresh 6) = some δ ∧
      δ = [⟨.shl_i32, [6, 2, 4]⟩, ⟨.movi_i32, [8, 32]⟩, ⟨.sub_i32, [7, 8, 4]⟩,
        ⟨.shr_i32, [7, 2, 7]⟩, ⟨.or_i32, [0, 6, 7]⟩] ∧
      (run δ (Machine.ofList [0, 0, 0x80000001, 0, 0, 0])).regs 0 = 0x80000001 ∧
      shifts_in_range δ (Machine.ofList [0, 0, 0x80000001, 0, 0, 0]) = false :=
  match (C39_rotate_fallback (TCGTarget.plain false) (TCGContext.fresh 6)
      (Machine.ofList [0, 0, 0x80000001, 0, 0, 0]) 0 2 4 (by decide) (by decide) (by decide)
      (by decide) (by decide)).1 with
  | ⟨δ, e, hv, _, h0⟩ =>
    ⟨δ, e, Option.some.inj (e.symm.trans (by decide)), (hv (by decide)).trans (by decide),
      h0 (by decide)⟩

/-- C40: in a debug build, after any sequence of `tcg_gen_goto_tb` and `tcg_gen_exit_tb`
calls that started from an empty issue mask and failed no assertion: bit `j` of the issue
mask is set exactly when `tcg_gen_goto_tb(j)` is among the calls; `tcg_gen_goto_tb(idx)`
succeeds exactly when `idx ≤ TB_EXIT_IDXMAX` and bit `idx` of the mask is clear, and it
then sets bit `idx` and changes no other bit; so a `tcg_gen_goto_tb(idx)` issued after an
earlier one with the same `idx` fails its assertion; and `tcg_gen_exit_tb(tb, idx)` with
`tb` non-null and `idx ≤ TB_EXIT_IDXMAX` succeeds exactly when `tcg_gen_goto_tb(idx)` is
among the earlier calls. -/
theorem C40_goto_tb_issue_mask (C : TBConfig) (hC : C.CONFIG_DEBUG_TCG = true)
    (calls : List TBCall) (s0 s : TBContext) (h0 : s0.goto_tb_issue_mask = 0)
    (hrun : run_tb_calls C calls s0 = some s) :
    (∀ j, s.goto_tb_issue_mask.testBit j = decide (TBCall.goto_tb j ∈ calls)) ∧
    (∀ idx, (tcg_gen_goto_tb C idx s).1 = some () ↔
      idx ≤ TB_EXIT_IDXMAX ∧ s.goto_tb_issue_mask.testBit idx = false) ∧
    (∀ idx, (tcg_gen_goto_tb C idx s).1 = some () → ∀ j,
      (tcg_gen_goto_tb C idx s).2.goto_tb_issue_mask.testBit j =
        (s.goto_tb_issue_mask.testBit j || decide (j = idx))) ∧
    (∀ idx, TBCall.goto_tb idx ∈ calls → (tcg_gen_goto_tb C idx s).1 = none ∧
      run_tb_calls C (calls ++ [.goto_tb idx]) s0 = none) ∧
    (∀ tb idx, tb ≠ 0 → idx ≤ TB_EXIT_IDXMAX →
      ((tcg_gen_exit_tb C tb idx s).1 = some () ↔ TBCall.goto_tb idx ∈ calls)) := by
  have hm : ∀ j, s.goto_tb_issue_mask.testBit j = decide (TBCall.goto_tb j ∈ calls) := by
    intro j
    rw [run_tb_calls_mask C hC calls s0 s hrun j, h0, Nat.zero_testBit, Bool.false_or]
  refine ⟨hm, fun idx => tcg_gen_goto_tb_ok C hC idx s,
    fun idx h j => tcg_gen_goto_tb_mask C hC idx s h j, fun idx hmem => ?_,
    fun tb idx htb hidx => ?_⟩
  · have hn : (tcg_gen_goto_tb C idx s).1 = none := by
      rcases hg : (tcg_gen_goto_tb C idx s).1 with _ | u
      · rfl
      · have := ((tcg_gen_goto_tb_ok C hC idx s).1 hg).2
        rw [hm idx] at this
        simp [hmem] at this
    refine ⟨hn, ?_⟩
    rw [run_tb_calls_append, hrun]
    show run_tb_calls C [.goto_tb idx] s = none
    simp only [run_tb_calls]
    rcases hg : tcg_gen_goto_tb C idx s with ⟨_ | u, s1⟩
    · rfl
    · rw [hg] at hn
      exact absurd hn (by simp)
  · rw [tcg_gen_exit_tb_ok C hC tb idx s htb hidx, hm idx]
    simp

/-- C40 at a concrete input: after `goto_tb(0)` and `exit_tb(tb, 0)`, a second `goto_tb(0)`
fails, `goto_tb(1)` succeeds, and `exit_tb(tb, 1)` fails, no `goto_tb(1)` having been
issued. -/
theorem C40_goto_tb_issue_mask_witness :
    (tcg_gen_goto_tb ⟨true, false, false⟩ 0 ⟨[.goto_tb 0, .exit_tb 0x1000], 1⟩).1 = none ∧
    (tcg_gen_goto_tb ⟨true, false, false⟩ 1 ⟨[.goto_tb 0, .exit_tb 0x1000], 1⟩).1 = some () ∧
    ¬ (tcg_gen_exit_tb ⟨true, false, false⟩ 0x1000 1 ⟨[.goto_tb 0, .exit_tb 0x1000], 1⟩).1
      = some () :=
  have h := C40_goto_tb_issue_mask ⟨true, false, false⟩ rfl [.goto_tb 0, .exit_tb 0x1000 0]
    ⟨[], 0⟩ ⟨[.goto_tb 0, .exit_tb 0x1000], 1⟩ rfl (by decide)
  ⟨(h.2.2.2.1 0 (by decide)).1, (h.2.1 1).2 (by decide),
    (h.2.2.2.2 0x1000 1 (by decide) (by decide)).not.2 (by decide)⟩

/-- C34: for every `MemOp` `c` that `tcg_canonicalize_memop` returns (for either container
width, load or store) whose access size is 8, 16 or 32 bits, or 64 bits when
`CONFIG_ATOMIC64` is set, the dispatch index `c & (MO_SIZE | MO_BSWAP)` is below 16 and
`table_cmpxchg` and every table `table_##NAME` of `GEN_ATOMIC_HELPER` hold a routine at that
index; the index `MO_8 | MO_BSWAP` of a byte access that kept its byte-swap bit holds none
in any of these tables. -/
theorem C34_atomic_dispatch (T : TCGTarget) (op : Nat) (is64 st : Bool) (s s' : TCGContext)
    (c : Nat) (h : tcg_canonicalize_memop T op is64 st s = (some c, s'))
    (h64 : c &&& MO_SIZE = MO_64 → T.CONFIG_ATOMIC64 = true) :
    c &&& (MO_SIZE ||| MO_BSWAP) < 16 ∧
    (table_cmpxchg T (c &&& (MO_SIZE ||| MO_BSWAP))).isSome = true ∧
    (∀ NAME : AtomicName, (NAME.table T (c &&& (MO_SIZE ||| MO_BSWAP))).isSome = true) ∧
    table_cmpxchg T ((MO_8 ||| MO_BSWAP) &&& (MO_SIZE ||| MO_BSWAP)) = none ∧
    (∀ NAME : AtomicName, NAME.table T ((MO_8 ||| MO_BSWAP) &&& (MO_SIZE ||| MO_BSWAP)) = none) := by
  have hb0 := canonical_byte_no_bswap T op is64 st s s' c h
  have hsz := and_MO_SIZE c
  have hbs := and_MO_BSWAP c
  have key : ∀ hlp : Helper, c &&& (MO_SIZE ||| MO_BSWAP) < 16 ∧
      (atomic_table T hlp (c &&& (MO_SIZE ||| MO_BSWAP))).isSome = true := by
    intro hlp
    rw [and_index]
    have h4 : c % 4 = 0 ∨ c % 4 = 1 ∨ c % 4 = 2 ∨ c % 4 = 3 := by omega
    rcases h4 with e | e | e | e
    · have e' : c &&& MO_SIZE = MO_8 := by rw [hsz, e]; rfl
      rw [hb0 e', e']
      exact ⟨by decide, by simp [atomic_table, MO_8, MO_16, MO_32, MO_BSWAP]⟩
    · have e' : c &&& MO_SIZE = 1 := by rw [hsz, e]
      rw [e']
      rcases hbs with b | b <;> rw [b] <;>
        exact ⟨by decide, by simp [atomic_table, MO_8, MO_16, MO_32, MO_BSWAP]⟩
    · have e' : c &&& MO_SIZE = 2 := by rw [hsz, e]
      rw [e']
      rcases hbs with b | b <;> rw [b] <;>
        exact ⟨by decide, by simp [atomic_table, MO_8, MO_16, MO_32, MO_BSWAP]⟩
    · have e' : c &&& MO_SIZE = 3 := by rw [hsz, e]
      have ha := h64 (by rw [e']; rfl)
      rw [e']
      rcases hbs with b | b <;> rw [b] <;>
        exact ⟨by decide, by simp [atomic_table, MO_8, MO_16, MO_32, MO_64, MO_BSWAP, ha]⟩
  refine ⟨(key .atomic_cmpxchg).1, (key .atomic_cmpxchg).2, fun NAME => (key NAME.helper).2,
    ?_, fun NAME => ?_⟩
  · have e : (MO_8 ||| MO_BSWAP) &&& (MO_SIZE ||| MO_BSWAP) = 8 := by decide
    rw [e]
    simp [table_cmpxchg, atomic_table, MO_8, MO_16, MO_32, MO_64, MO_BSWAP]
  · have e : (MO_8 ||| MO_BSWAP) &&& (MO_SIZE ||| MO_BSWAP) = 8 := by decide
    rw [e]
    simp [AtomicName.table, atomic_table, MO_8, MO_16, MO_32, MO_64, MO_BSWAP]

/-- C34 at a concrete input: the big-endian signed 16-bit `MemOp` dispatches to entry 9 of
`table_fetch_add`, which holds a routine. -/
theorem C34_atomic_dispatch_witness :
    (MO_SW ||| MO_BSWAP) &&& (MO_SIZE ||| MO_BSWAP) = 9 ∧
    (AtomicName.fetch_add.table (TCGTarget.plain true) 9).isSome = true :=
  have h := C34_atomic_dispatch (TCGTarget.plain true) (MO_SW ||| MO_BSWAP) false false
    (TCGContext.fresh 0) (TCGContext.fresh 0) (MO_SW ||| MO_BSWAP) (by decide) (by decide)
  ⟨by decide, h.2.2.1 .fetch_add⟩

/-- C31: on a 32-bit host, for a `MemOp` of size below 64 bits, the 64-bit load emits the
ops of the 32-bit load of the low word (same address, index and `MemOp`) followed by the op
that sets the high word: `sar_i32 high, low, t` for a signed `MemOp`, `t` being a scratch
temporary into which a `movi_i32` puts the shift amount 31, and `movi_i32 high, 0`
otherwise; the pair then holds the sign- or zero-extended 64-bit load result; and the
64-bit store is the 32-bit store of the low word. -/
theorem C31_narrow_i64_on_32bit_host (T : TCGTarget) (hT : T.reg64 = false)
    (val addr idx memop : Nat) (s : TCGContext) (m : Machine)
    (hsz : memop &&& MO_SIZE < MO_64) (hidx : idx < 16)
    (hal : T.alignment_valid memop = true)
    (hv : val + 2 ≤ s.nb_temps) (ha : addr + T.aw ≤ s.nb_temps) :
    (∃ δ k c, tcg_gen_qemu_ld_i32_with_checked_addr T (TCGV_LOW val) addr idx memop s =
        (some (), s.extend δ k) ∧
      tcg_canonicalize_memop T memop true false s = (some c, s) ∧
      emitted (tcg_gen_qemu_ld_i64_with_checked_addr T val addr idx memop) s =
        some (δ ++ if memop &&& MO_SIGN ≠ 0 then
          [⟨.movi_i32, [s.nb_temps + k, 31]⟩,
           ⟨.sar_i32, [TCGV_HIGH val, TCGV_LOW val, s.nb_temps + k]⟩]
          else [⟨.movi_i32, [TCGV_HIGH val, 0]⟩]) ∧
      (run (δ ++ if memop &&& MO_SIGN ≠ 0 then
          [⟨.movi_i32, [s.nb_temps + k, 31]⟩,
           ⟨.sar_i32, [TCGV_HIGH val, TCGV_LOW val, s.nb_temps + k]⟩]
          else [⟨.movi_i32, [TCGV_HIGH val, 0]⟩]) m).get64 T val =
        mem_ld 64 m.mem (T.ea m addr) c) ∧
    (∀ invalidate, tcg_gen_qemu_st_i64_with_checked_addr_cond_invalidate T val addr idx memop
        invalidate =
      tcg_gen_qemu_st_i32_with_checked_addr_cond_invalidate T (TCGV_LOW val) addr idx memop
        invalidate) ∧
    tcg_gen_qemu_st_i64_with_checked_addr T val addr idx memop =
      tcg_gen_qemu_st_i32_with_checked_addr T (TCGV_LOW val) addr idx memop := by
  have hw := w64_of_reg32 hT
  have h64ne : memop &&& MO_SIZE ≠ MO_64 := Nat.ne_of_lt hsz
  have hA : ¬ T.reg64 = true ∧ memop &&& MO_SIZE < MO_64 := ⟨by simp [hT], hsz⟩
  have hst : ∀ invalidate,
      tcg_gen_qemu_st_i64_with_checked_addr_cond_invalidate T val addr idx memop invalidate =
      tcg_gen_qemu_st_i32_with_checked_addr_cond_invalidate T (TCGV_LOW val) addr idx memop
        invalidate := by
    intro invalidate
    unfold tcg_gen_qemu_st_i64_with_checked_addr_cond_invalidate
    rw [if_pos hA]
  refine ⟨?_, hst, ?_⟩
  · have hc32 := canonical_ld_of T memop false hal (fun _ => h64ne)
    have hc64 := canonical_ld_of T memop true hal (fun h => absurd h (by decide))
    obtain ⟨δ, k, e, _⟩ := (@tcg_gen_qemu_ld_i32_sem T (TCGV_LOW val) addr
      s.nb_temps idx memop _ hidx hc32 (by simp only [TCGV_LOW]; omega) ha).2 s
      (le_refl _)
    obtain ⟨δ', k', e', hS⟩ := (@tcg_gen_qemu_ld_i64_sem T val addr
      s.nb_temps idx memop _ hidx hc64 (by omega) ha).2 s (le_refl _)
    have e2 : tcg_gen_qemu_ld_i64_with_checked_addr T val addr idx memop s =
        (some (), s.extend (δ ++ if memop &&& MO_SIGN ≠ 0 then
          [⟨.movi_i32, [s.nb_temps + k, 31]⟩,
           ⟨.sar_i32, [TCGV_HIGH val, TCGV_LOW val, s.nb_temps + k]⟩]
          else [⟨.movi_i32, [TCGV_HIGH val, 0]⟩])
          (k + if memop &&& MO_SIGN ≠ 0 then 1 else 0)) := by
      unfold tcg_gen_qemu_ld_i64_with_checked_addr
      rw [if_pos hA, Gen.bind_apply, e, Gen.andThen_some, ld_i64_high_ops]
      split <;> simp [TCGContext.extend, List.append_assoc, Nat.add_assoc]
    have hδ : δ' = δ ++ if memop &&& MO_SIGN ≠ 0 then
          [⟨.movi_i32, [s.nb_temps + k, 31]⟩,
           ⟨.sar_i32, [TCGV_HIGH val, TCGV_LOW val, s.nb_temps + k]⟩]
          else [⟨.movi_i32, [TCGV_HIGH val, 0]⟩] := by
      rw [e2] at e'
      exact (TCGContext.extend_ops_inj (congrArg Prod.snd e')).symm
    refine ⟨δ, k, _, e, hc64 s, emitted_of_eq e2, ?_⟩
    rw [← hδ]
    have := (hS m).get64 T (show val + T.w64 ≤ s.nb_temps by omega)
    rw [Machine.get64_set64_self] at this
    rw [this]
    exact Nat.mod_eq_of_lt (mem_ld_lt _ _ _ _)
  · unfold tcg_gen_qemu_st_i64_with_checked_addr tcg_gen_qemu_st_i32_with_checked_addr
    exact hst true

/-- C31 at a concrete input: on the 32-bit host without optional ops the signed 16-bit load
of the bytes `0x80, 0xff` into the pair `(0, 1)` emits the 32-bit load into temporary 0,
then the constant 31 and the arithmetic shift into temporary 1, and the pair holds
`0xffffffffffffff80`. -/
theorem C31_narrow_i64_on_32bit_host_witness :
    emitted (tcg_gen_qemu_ld_i64_with_checked_addr (TCGTarget.plain false) 0 2 0 MO_SW)
        (TCGContext.fresh 3) =
      some [⟨.qemu_ld_i32, [0, 2, make_memop_idx MO_SW 0]⟩, ⟨.movi_i32, [3, 31]⟩,
        ⟨.sar_i32, [1, 0, 3]⟩] ∧
    (run [⟨.qemu_ld_i32, [0, 2, make_memop_idx MO_SW 0]⟩, ⟨.movi_i32, [3, 31]⟩,
        ⟨.sar_i32, [1, 0, 3]⟩]
      ⟨fun _ => 0, fun a => if a = 0 then 0x80 else if a = 1 then 0xff else 0⟩).get64
        (TCGTarget.plain false) 0 = 0xffffffffffffff80 := by
  obtain ⟨⟨δ, k, c, e, hc, hem, hval⟩, _, _⟩ :=
    C31_narrow_i64_on_32bit_host (TCGTarget.plain false) rfl 0 2 0 MO_SW (TCGContext.fresh 3)
      ⟨fun _ => 0, fun a => if a = 0 then 0x80 else if a = 1 then 0xff else 0⟩
      (by decide) (by decide) rfl (by decide) (by decide)
  have hL := Option.some.inj (hem.symm.trans (by decide :
    emitted (tcg_gen_qemu_ld_i64_with_checked_addr (TCGTarget.plain false) 0 2 0 MO_SW)
        (TCGContext.fresh 3) =
      some [⟨.qemu_ld_i32, [0, 2, make_memop_idx MO_SW 0]⟩, ⟨.movi_i32, [3, 31]⟩,
        ⟨.sar_i32, [1, 0, 3]⟩]))
  have hcv : c = MO_SW := (Option.some.inj ((congrArg Prod.fst hc).symm.trans (by decide :
    (tcg_canonicalize_memop (TCGTarget.plain false) MO_SW true false (TCGContext.fresh 3)).1 =
      some MO_SW)))
  rw [hL] at hval
  rw [hcv] at hval
  exact ⟨by decide, hval.trans (by decide)⟩

/-- C33 (the code at the failing input): on a CHERI RISC-V target, on either host word size,
for every read-modify-write family of `GEN_ATOMIC_HELPER` and every `MemOp` of 8, 16 or 32
bits listed, the ops that `tcg_gen_atomic_##NAME##_i64` emits in parallel mode contain two
invocations of the tag-invalidation hook and two of the load-link-break hook: one pair is
emitted by the nested `do_atomic_op_i32`, one by `do_atomic_op_i64` itself. The atomic
strategy in the 32-bit container, the 64-bit access of the atomic strategy, and the
sequential strategy at both container widths invoke each hook once. -/
theorem C33_atomic_i64_hooks_twice (reg64 : Bool) (NAME : AtomicName) :
    (∀ memop ∈ [MO_UB, MO_SW, MO_UL, MO_UL ||| MO_BSWAP],
      (emitted (tcg_gen_atomic_NAME_i64 (TCGTarget.cheri_riscv reg64) NAME 0 2 4 0 memop)
          (TCGContext.parallel 6)).map
        (fun δ => (hook_calls .cheri_invalidate_tags δ, hook_calls .cheri_break_loadlink δ)) =
        some (2, 2) ∧
      (emitted (tcg_gen_atomic_NAME_i32 (TCGTarget.cheri_riscv reg64) NAME 0 2 4 0 memop)
          (TCGContext.parallel 6)).map
        (fun δ => (hook_calls .cheri_invalidate_tags δ, hook_calls .cheri_break_loadlink δ)) =
        some (1, 1)) ∧
    (emitted (tcg_gen_atomic_NAME_i64 (TCGTarget.cheri_riscv reg64) NAME 0 2 4 0 MO_Q)
        (TCGContext.parallel 6)).map
      (fun δ => (hook_calls .cheri_invalidate_tags δ, hook_calls .cheri_break_loadlink δ)) =
      some (1, 1) ∧
    (emitted (tcg_gen_atomic_NAME_i64 (TCGTarget.cheri_riscv reg64) NAME 0 2 4 0 MO_UL)
        (TCGContext.fresh 6)).map
      (fun δ => (hook_calls .cheri_invalidate_tags δ, hook_calls .cheri_break_loadlink δ)) =
      some (1, 1) ∧
    (emitted (tcg_gen_atomic_NAME_i32 (TCGTarget.cheri_riscv reg64) NAME 0 2 4 0 MO_UL)
        (TCGContext.fresh 6)).map
      (fun δ => (hook_calls .cheri_invalidate_tags δ, hook_calls .cheri_break_loadlink δ)) =
      some (1, 1) := by
  cases reg64 <;> cases NAME <;> decide

/-- C32: in a unit translated for sequential execution, for every family `NAME`
instantiated by `GEN_ATOMIC_HELPER`, every `MemOp` whose alignment assertion holds and
every machine state, `tcg_gen_atomic_NAME_i32` (access sizes below 64 bits) and
`tcg_gen_atomic_NAME_i64` emit ops after which memory is the memory before with
`new = op(e(old), e(val))` stored under the `MemOp`, so that the location reads back as
the low `s` bytes of `new`; here `s` is the access size, `old` the `s`-byte value at the
address before, and `e` extends from `s` bytes into the container: with sign for
smin/smax, without for umin/umax, by the `MO_SIGN` bit of the `MemOp` for
add/and/or/xor/xchg (at 64 bits it extends nothing).  The value left in `ret` is `new` for
the `op_fetch` forms and `old` for the `fetch_op` forms and xchg, in each case extended
from `s` bytes by the `MO_SIGN` bit of the `MemOp`, whatever the signedness of the
operation. -/
theorem C32_sequential_rmw (T : TCGTarget) (NAME : AtomicName) (s : TCGContext)
    (m : Machine) (ret addr val idx memop : Nat)
    (hseq : s.tb_cflags &&& CF_PARALLEL = 0) (hidx : idx < 16)
    (hal : ∀ x, x &&& MO_AMASK = memop &&& MO_AMASK → x &&& MO_SIZE = memop &&& MO_SIZE →
      T.alignment_valid x = true)
    (ha : addr + T.aw ≤ s.nb_temps) :
    (memop &&& MO_SIZE ≠ MO_64 → ret < s.nb_temps → val < s.nb_temps →
      ∃ δ, emitted (tcg_gen_atomic_NAME_i32 T NAME ret addr val idx memop) s = some δ ∧
        (run δ m).mem = mem_st m.mem (T.ea m addr) memop
          (NAME.op 32
            (extend_from 32 (8 * 2 ^ (memop &&& MO_SIZE)) (NAME.SIGNED.extends_signed memop)
              (mem_ld 32 m.mem (T.ea m addr) (memop &&& bnot 32 MO_SIGN)))
            (extend_from 32 (8 * 2 ^ (memop &&& MO_SIZE)) (NAME.SIGNED.extends_signed memop)
              (m.regs val))) ∧
        mem_ld 32 (run δ m).mem (T.ea m addr) (memop &&& bnot 32 MO_SIGN) =
          (NAME.op 32
            (extend_from 32 (8 * 2 ^ (memop &&& MO_SIZE)) (NAME.SIGNED.extends_signed memop)
              (mem_ld 32 m.mem (T.ea m addr) (memop &&& bnot 32 MO_SIGN)))
            (extend_from 32 (8 * 2 ^ (memop &&& MO_SIZE)) (NAME.SIGNED.extends_signed memop)
              (m.regs val))) % 2 ^ (8 * 2 ^ (memop &&& MO_SIZE)) ∧
        (run δ m).regs ret =
          extend_from 32 (8 * 2 ^ (memop &&& MO_SIZE)) (decide (memop &&& MO_SIGN ≠ 0))
            (if NAME.NEW = true then
              NAME.op 32
                (extend_from 32 (8 * 2 ^ (memop &&& MO_SIZE))
                  (NAME.SIGNED.extends_signed memop)
                  (mem_ld 32 m.mem (T.ea m addr) (memop &&& bnot 32 MO_SIGN)))
                (extend_from 32 (8 * 2 ^ (memop &&& MO_SIZE))
                  (NAME.SIGNED.extends_signed memop) (m.regs val))
             else mem_ld 32 m.mem (T.ea m addr) (memop &&& bnot 32 MO_SIGN))) ∧
    (ret + T.w64 ≤ s.nb_temps → val + T.w64 ≤ s.nb_temps →
      ∃ δ, emitted (tcg_gen_atomic_NAME_i64 T NAME ret addr val idx memop) s = some δ ∧
        (run δ m).mem = mem_st m.mem (T.ea m addr) memop
          (NAME.op 64
            (extend_from 64 (8 * 2 ^ (memop &&& MO_SIZE)) (NAME.SIGNED.extends_signed memop)
              (mem_ld 64 m.mem (T.ea m addr) (memop &&& bnot 32 MO_SIGN)))
            (extend_from 64 (8 * 2 ^ (memop &&& MO_SIZE)) (NAME.SIGNED.extends_signed memop)
              (m.get64 T val))) ∧
        mem_ld 64 (run δ m).mem (T.ea m addr) (memop &&& bnot 32 MO_SIGN) =
          (NAME.op 64
            (extend_from 64 (8 * 2 ^ (memop &&& MO_SIZE)) (NAME.SIGNED.extends_signed memop)
              (mem_ld 64 m.mem (T.ea m addr) (memop &&& bnot 32 MO_SIGN)))
            (extend_from 64 (8 * 2 ^ (memop &&& MO_SIZE)) (NAME.SIGNED.extends_signed memop)
              (m.get64 T val))) % 2 ^ (8 * 2 ^ (memop &&& MO_SIZE)) ∧
        (run δ m).get64 T ret =
          extend_from 64 (8 * 2 ^ (memop &&& MO_SIZE)) (decide (memop &&& MO_SIGN ≠ 0))
            (if NAME.NEW = true then
              NAME.op 64
                (extend_from 64 (8 * 2 ^ (memop &&& MO_SIZE))
                  (NAME.SIGNED.extends_signed memop)
                  (mem_ld 64 m.mem (T.ea m addr) (memop &&& bnot 32 MO_SIGN)))
                (extend_from 64 (8 * 2 ^ (memop &&& MO_SIZE))
                  (NAME.SIGNED.extends_signed memop) (m.get64 T val))
             else mem_ld 64 m.mem (T.ea m addr) (memop &&& bnot 32 MO_SIGN))) :=
  ⟨rmw_seq_i32 T NAME s m ret addr val idx memop hseq hidx hal ha,
    rmw_seq_i64 T NAME s m ret addr val idx memop hseq hidx hal ha⟩

/-- C32 at a concrete input: the signed minimum on an unsigned byte `MemOp`, with the byte
`0x01` in memory and the operand `0x80`, stores `0x80` (the operands are compared as the
signed bytes 1 and -128) and returns the prior byte `0x01`, zero-extended. -/
theorem C32_sequential_rmw_witness :
    ∃ δ, emitted (tcg_gen_atomic_NAME_i32 (TCGTarget.plain true) .fetch_smin 0 1 2 0 MO_UB)
        (TCGContext.fresh 3) = some δ ∧
      (run δ ⟨fun i => if i = 2 then 0x80 else 0, fun a => if a = 0 then 1 else 0⟩).mem 0 =
        0x80 ∧
      (run δ ⟨fun i => if i = 2 then 0x80 else 0, fun a => if a = 0 then 1 else 0⟩).regs 0 =
        1 :=
  match (C32_sequential_rmw (TCGTarget.plain true) .fetch_smin (TCGContext.fresh 3)
      ⟨fun i => if i = 2 then 0x80 else 0, fun a => if a = 0 then 1 else 0⟩ 0 1 2 0 MO_UB
      (by decide) (by decide) (fun _ _ _ => rfl) (by decide)).1 (by decide) (by decide)
      (by decide) with
  | ⟨δ, e, hm, _, hr⟩ => ⟨δ, e, (congrFun hm 0).trans (by decide), hr.trans (by decide)⟩

/-- C5: in a unit translated for sequential execution, for every `MemOp` whose alignment
assertion holds (every access size and byte order) and every machine state, with `old`
the value at the address before (read unsigned at the access size), the ops emitted by
`tcg_gen_atomic_cmpxchg_i32_with_checked_addr` (access sizes below 64 bits) and by
`tcg_gen_atomic_cmpxchg_i64_with_checked_addr` store, under the `MemOp`, the new value
`newv` when `old` equals the expected value `cmpv` truncated to the access size, and
`old` itself otherwise; so the location afterwards reads back as `newv` truncated to the
access size in the first case and as `old` in the second.  In both cases the value left
in `retv` is `old`, zero-extended, or sign-extended from the access size when the `MemOp`
carries `MO_SIGN`. -/
theorem C5_sequential_cmpxchg (T : TCGTarget) (s : TCGContext) (m : Machine)
    (retv addr cmpv newv idx memop : Nat)
    (hseq : s.tb_cflags &&& CF_PARALLEL = 0) (hidx : idx < 16)
    (hal : ∀ x, x &&& MO_AMASK = memop &&& MO_AMASK → x &&& MO_SIZE = memop &&& MO_SIZE →
      T.alignment_valid x = true)
    (ha : addr + T.aw ≤ s.nb_temps) :
    (memop &&& MO_SIZE ≠ MO_64 → retv < s.nb_temps → cmpv < s.nb_temps →
      newv < s.nb_temps →
      ∃ δ, emitted (tcg_gen_atomic_cmpxchg_i32_with_checked_addr T retv addr cmpv newv idx
          memop) s = some δ ∧
        (run δ m).mem = mem_st m.mem (T.ea m addr) memop
          (if mem_ld 32 m.mem (T.ea m addr) (memop &&& bnot 32 MO_SIGN) =
              m.regs cmpv % 2 ^ (8 * 2 ^ (memop &&& MO_SIZE))
            then m.regs newv
            else mem_ld 32 m.mem (T.ea m addr) (memop &&& bnot 32 MO_SIGN)) ∧
        mem_ld 32 (run δ m).mem (T.ea m addr) (memop &&& bnot 32 MO_SIGN) =
          (if mem_ld 32 m.mem (T.ea m addr) (memop &&& bnot 32 MO_SIGN) =
              m.regs cmpv % 2 ^ (8 * 2 ^ (memop &&& MO_SIZE))
            then m.regs newv % 2 ^ (8 * 2 ^ (memop &&& MO_SIZE))
            else mem_ld 32 m.mem (T.ea m addr) (memop &&& bnot 32 MO_SIGN)) ∧
        (run δ m).regs retv =
          extend_from 32 (8 * 2 ^ (memop &&& MO_SIZE)) (decide (memop &&& MO_SIGN ≠ 0))
            (mem_ld 32 m.mem (T.ea m addr) (memop &&& bnot 32 MO_SIGN))) ∧
    (retv + T.w64 ≤ s.nb_temps → cmpv + T.w64 ≤ s.nb_temps → newv + T.w64 ≤ s.nb_temps →
      ∃ δ, emitted (tcg_gen_atomic_cmpxchg_i64_with_checked_addr T retv addr cmpv newv idx
          memop) s = some δ ∧
        (run δ m).mem = mem_st m.mem (T.ea m addr) memop
          (if mem_ld 64 m.mem (T.ea m addr) (memop &&& bnot 32 MO_SIGN) =
              m.get64 T cmpv % 2 ^ (8 * 2 ^ (memop &&& MO_SIZE))
            then m.get64 T newv
            else mem_ld 64 m.mem (T.ea m addr) (memop &&& bnot 32 MO_SIGN)) ∧
        mem_ld 64 (run δ m).mem (T.ea m addr) (memop &&& bnot 32 MO_SIGN) =
          (if mem_ld 64 m.mem (T.ea m addr) (memop &&& bnot 32 MO_SIGN) =
              m.get64 T cmpv % 2 ^ (8 * 2 ^ (memop &&& MO_SIZE))
            then m.get64 T newv % 2 ^ (8 * 2 ^ (memop &&& MO_SIZE))
            else mem_ld 64 m.mem (T.ea m addr) (memop &&& bnot 32 MO_SIGN)) ∧
        (run δ m).get64 T retv =
          extend_from 64 (8 * 2 ^ (memop &&& MO_SIZE)) (decide (memop &&& MO_SIGN ≠ 0))
            (mem_ld 64 m.mem (T.ea m addr) (memop &&& bnot 32 MO_SIGN))) := by
  have hw1 := w64_pos T
  constructor
  · intro h64 hr hcm hnv
    obtain ⟨c, d, e, hc, hd, he, hpos, hle, c1, kl, ks, kc⟩ :=
      cmpxchg_fields T memop false hal (fun _ => h64)
    simp only [Bool.false_eq_true, if_false] at hle kl kc
    obtain ⟨δ, k, hδ, R⟩ := @tcg_gen_atomic_cmpxchg_i32_seq T retv addr cmpv newv idx memop c d e s hseq hidx hc hd he hr hcm hnv ha
    have hold := (mem_ld_eq_extend 32 m.mem (T.ea m addr) memop hle).2
    have hold32 := lt_of_lt_of_le hold (Nat.pow_le_pow_right (by norm_num) hle)
    have hC : m.regs cmpv % 2 ^ (8 * 2 ^ (memop &&& MO_SIZE)) < 2 ^ 32 :=
      lt_of_lt_of_le (Nat.mod_lt _ (Nat.two_pow_pos _)) (Nat.pow_le_pow_right (by norm_num) hle)
    have hmem := (R m).1
    have hret := (R m).2 retv hr
    simp only [Machine.set_regs_self, Machine.set_mem, kl, ks, c1, eval_EQ_iff 32 _ _ hold32 hC,
      Nat.mod_eq_of_lt hold32] at hmem hret
    have hmem' : (run δ m).mem = mem_st m.mem (T.ea m addr) memop
        (if mem_ld 32 m.mem (T.ea m addr) (memop &&& bnot 32 MO_SIGN) =
            m.regs cmpv % 2 ^ (8 * 2 ^ (memop &&& MO_SIZE))
          then m.regs newv
          else mem_ld 32 m.mem (T.ea m addr) (memop &&& bnot 32 MO_SIGN)) := by
      rw [hmem]
      split
      · exact mem_st_mod _ _ _ _ 32 hle
      · rfl
    refine ⟨δ, emitted_of_eq hδ, hmem', ?_, ?_⟩
    · rw [hmem', mem_ld_mem_st 32 _ _ _ _ hle]
      split
      · rfl
      · exact Nat.mod_eq_of_lt hold
    · rw [hret]
      have hu : extend_from 32 (8 * 2 ^ (memop &&& MO_SIZE)) false
          (mem_ld 32 m.mem (T.ea m addr) (memop &&& bnot 32 MO_SIGN)) =
          mem_ld 32 m.mem (T.ea m addr) (memop &&& bnot 32 MO_SIGN) := by
        unfold extend_from
        simp only [Bool.false_eq_true, if_false]
        exact Nat.mod_eq_of_lt hold
      rw [← extend_from_sign 32 _ _ _ _ kc]
      by_cases hs : c &&& MO_SIGN ≠ 0
      · rw [if_pos hs]
        simp only [hs, ne_eq, not_false_eq_true, decide_True]
      · rw [if_neg hs]
        simp only [hs, decide_False]
        exact hu.symm
  · intro hr hcm hnv
    obtain ⟨c, d, e, hc, hd, he, hpos, hle, c1, kl, ks, kc⟩ :=
      cmpxchg_fields T memop true hal (fun h => absurd h (by decide))
    simp only [if_true] at hle kl kc
    obtain ⟨δ, k, hδ, R⟩ := @tcg_gen_atomic_cmpxchg_i64_seq T retv addr cmpv newv idx memop c d e s hseq hidx hc hd he hr hcm hnv ha
    have hold := (mem_ld_eq_extend 64 m.mem (T.ea m addr) memop hle).2
    have hold64 := lt_of_lt_of_le hold (Nat.pow_le_pow_right (by norm_num) hle)
    have hC : m.get64 T cmpv % 2 ^ (8 * 2 ^ (memop &&& MO_SIZE)) < 2 ^ 64 :=
      lt_of_lt_of_le (Nat.mod_lt _ (Nat.two_pow_pos _)) (Nat.pow_le_pow_right (by norm_num) hle)
    have hx : ∀ x, extend_from 64 (8 * 2 ^ (memop &&& MO_SIZE)) false x =
        x % 2 ^ (8 * 2 ^ (memop &&& MO_SIZE)) := fun x => by simp [extend_from]
    have hmem := (R m).1
    have hret := (R m).get64 T hr
    simp only [Machine.get64_set64_self, Machine.set64_mem, kl, ks, c1, hx,
      Nat.mod_eq_of_lt hold64, Nat.mod_eq_of_lt hC, eval_EQ_iff 64 _ _ hold64 hC,
      mem_st_mod _ _ _ _ 64 hle] at hmem hret
    refine ⟨δ, emitted_of_eq hδ, hmem, ?_, ?_⟩
    · rw [hmem, mem_ld_mem_st 64 _ _ _ _ hle]
      split
      · rfl
      · exact Nat.mod_eq_of_lt hold
    · rw [hret, ← extend_from_sign 64 _ _ _ _ kc]
      by_cases hs : c &&& MO_SIGN ≠ 0
      · rw [if_pos hs]
        simp only [hs, ne_eq, not_false_eq_true, decide_True]
        exact Nat.mod_eq_of_lt (extend_from_lt 64 _ _ _ hle)
      · rw [if_neg hs]
        simp only [hs, decide_False, hx, Nat.mod_eq_of_lt hold, Nat.mod_eq_of_lt hold64]

/-- C5 at a concrete input: a signed byte compare-and-swap with the byte `0x80` in memory,
the expected value `0x180` (equal to it at the access size) and the new value `0x17f`
stores `0x7f` and returns the prior byte sign-extended, `0xffffff80`. -/
theorem C5_sequential_cmpxchg_witness :
    ∃ δ, emitted (tcg_gen_atomic_cmpxchg_i32_with_checked_addr (TCGTarget.plain true) 0 1 2 3 0
        MO_SB) (TCGContext.fresh 4) = some δ ∧
      (run δ ⟨fun i => if i = 2 then 0x180 else if i = 3 then 0x17f else 0,
        fun a => if a = 0 then 0x80 else 0⟩).mem 0 = 0x7f ∧
      (run δ ⟨fun i => if i = 2 then 0x180 else if i = 3 then 0x17f else 0,
        fun a => if a = 0 then 0x80 else 0⟩).regs 0 = 0xffffff80 :=
  match (C5_sequential_cmpxchg (TCGTarget.plain true) (TCGContext.fresh 4)
      ⟨fun i => if i = 2 then 0x180 else if i = 3 then 0x17f else 0,
        fun a => if a = 0 then 0x80 else 0⟩ 0 1 2 3 0 MO_SB
      (by decide) (by decide) (fun _ _ _ => rfl) (by decide)).1 (by decide) (by decide)
      (by decide) (by decide) with
  | ⟨δ, e, hm, _, hr⟩ => ⟨δ, e, (congrFun hm 0).trans (by decide), hr.trans (by decide)⟩

/-- C6: for every read-modify-write family of `GEN_ATOMIC_HELPER`, both container widths,
every `MemOp` whose alignment assertion holds, every machine state (initial memory and
operand) in which the address temporary of a 32-bit guest holds a 32-bit address: the ops
emitted for a unit translated for sequential execution (`do_nonatomic_op_*`) and the ops
emitted for a unit translated in parallel mode (`do_atomic_op_*`, calling the runtime
routine, whose effect is taken from its description) leave the same memory and the same
value in `ret`.  The 32-bit form is taken at access sizes below 64 bits; the 64-bit form
at the 64-bit access size needs `CONFIG_ATOMIC64`, without which the parallel form calls
no routine. -/
theorem C6_strategies_agree (T : TCGTarget) (NAME : AtomicName) (s p : TCGContext)
    (m : Machine) (ret addr val idx memop : Nat)
    (hseq : s.tb_cflags &&& CF_PARALLEL = 0) (hpar : p.tb_cflags &&& CF_PARALLEL ≠ 0)
    (hidx : idx < 16) (hcheri : T.ASSERT_IF_CHERI = true)
    (hal : ∀ x, x &&& MO_AMASK = memop &&& MO_AMASK → x &&& MO_SIZE = memop &&& MO_SIZE →
      T.alignment_valid x = true)
    (has : addr + T.aw ≤ s.nb_temps) (hap : addr + T.aw ≤ p.nb_temps)
    (hea : T.target_long64 = false → m.regs addr < 2 ^ 32) :
    (memop &&& MO_SIZE ≠ MO_64 → ret < s.nb_temps → val < s.nb_temps →
      ret < p.nb_temps → val < p.nb_temps →
      ∃ δs δp, emitted (tcg_gen_atomic_NAME_i32 T NAME ret addr val idx memop) s = some δs ∧
        emitted (tcg_gen_atomic_NAME_i32 T NAME ret addr val idx memop) p = some δp ∧
        (run δs m).mem = (run δp m).mem ∧ (run δs m).regs ret = (run δp m).regs ret) ∧
    ((memop &&& MO_SIZE = MO_64 → T.CONFIG_ATOMIC64 = true) →
      ret + T.w64 ≤ s.nb_temps → val + T.w64 ≤ s.nb_temps →
      ret + T.w64 ≤ p.nb_temps → val + T.w64 ≤ p.nb_temps →
      ∃ δs δp, emitted (tcg_gen_atomic_NAME_i64 T NAME ret addr val idx memop) s = some δs ∧
        emitted (tcg_gen_atomic_NAME_i64 T NAME ret addr val idx memop) p = some δp ∧
        (run δs m).mem = (run δp m).mem ∧
        (run δs m).get64 T ret = (run δp m).get64 T ret) := by
  have hE := ea_eq_addr_val T m addr hea
  have hsz : 8 * 2 ^ (memop &&& MO_SIZE) ≤ 64 := size_bits_le_64 memop
  constructor
  · intro h64 hrs hvs hrp hvp
    obtain ⟨δs, es, ms, _, rs⟩ := rmw_seq_i32 T NAME s m ret addr val idx memop hseq hidx hal
      has h64 hrs hvs
    obtain ⟨δp, ep, mp, rp⟩ := rmw_atomic_i32 T NAME p m ret addr val idx memop hpar hcheri
      hal hap h64 hrp hvp
    have hw : 8 * 2 ^ (memop &&& MO_SIZE) ≤ 32 := by
      have h3 : memop &&& MO_SIZE ≤ 3 := by rw [and_MO_SIZE]; omega
      have hne : memop &&& MO_SIZE ≠ 3 := h64
      interval_cases (memop &&& MO_SIZE) <;> simp_all
    have hold := (mem_ld_eq_extend 32 m.mem (T.addr_val m addr) memop hw).2
    obtain ⟨g1, g2⟩ := rmw_values_agree NAME 32 memop _ (m.regs val) hw hold
    refine ⟨δs, δp, es, ep, ?_, ?_⟩
    · rw [ms, mp, hE]
      exact mem_st_congr _ _ memop memop _ _ rfl rfl g1
    · rw [rs, rp, hE]
      exact g2 _
  · intro h64 hrs hvs hrp hvp
    obtain ⟨δs, es, ms, _, rs⟩ := rmw_seq_i64 T NAME s m ret addr val idx memop hseq hidx hal
      has hrs hvs
    obtain ⟨δp, ep, mp, rp⟩ := rmw_atomic_i64 T NAME p m ret addr val idx memop hpar hcheri
      hal hap h64 hrp hvp
    have hold := (mem_ld_eq_extend 64 m.mem (T.addr_val m addr) memop hsz).2
    obtain ⟨g1, g2⟩ := rmw_values_agree NAME 64 memop _ (m.get64 T val) hsz hold
    refine ⟨δs, δp, es, ep, ?_, ?_⟩
    · rw [ms, mp, hE]
      exact mem_st_congr _ _ memop memop _ _ rfl rfl g1
    · rw [rs, rp, hE]
      exact g2 _

/-- C6 at a concrete input: the signed minimum on a signed byte `MemOp`, with the byte
`0x01` in memory and the operand `0x80`, leaves the same memory and the same returned
value whether the unit is translated for sequential execution or in parallel mode. -/
theorem C6_strategies_agree_witness :
    ∃ δs δp,
      emitted (tcg_gen_atomic_NAME_i32 (TCGTarget.plain true) .fetch_smin 0 1 2 0 MO_SB)
        (TCGContext.fresh 3) = some δs ∧
      emitted (tcg_gen_atomic_NAME_i32 (TCGTarget.plain true) .fetch_smin 0 1 2 0 MO_SB)
        (TCGContext.parallel 3) = some δp ∧
      (run δs ⟨fun i => if i = 2 then 0x80 else 0, fun a => if a = 0 then 1 else 0⟩).mem =
        (run δp ⟨fun i => if i = 2 then 0x80 else 0, fun a => if a = 0 then 1 else 0⟩).mem ∧
      (run δs ⟨fun i => if i = 2 then 0x80 else 0, fun a => if a = 0 then 1 else 0⟩).regs 0 =
        (run δp ⟨fun i => if i = 2 then 0x80 else 0, fun a => if a = 0 then 1 else 0⟩).regs 0 :=
  (C6_strategies_agree (TCGTarget.plain true) .fetch_smin (TCGContext.fresh 3)
    (TCGContext.parallel 3)
    ⟨fun i => if i = 2 then 0x80 else 0, fun a => if a = 0 then 1 else 0⟩ 0 1 2 0 MO_SB
    (by decide) (by decide) (by decide) rfl (fun _ _ _ => rfl) (by decide) (by decide)
    (fun _ => by decide)).1 (by decide) (by decide) (by decide) (by decide) (by decide)

/-- C30: on a host without memory byte-swap support, for a `MemOp` whose canonical form
still asks for a byte swap, the memory-access lowering calls the 16-bit byte swap, and
for a 64-bit container on a 64-bit host the 32-bit byte swap, on a value whose bits above
the access size are zero.  The ops of the lowering are a prefix, then the ops of that
call, then a rest (`CalledAt`).  In a load (`tcg_gen_qemu_ld_i32_with_checked_addr`,
`tcg_gen_qemu_ld_i64_with_checked_addr`) the swap is made on `val`, on its low word
when a 32-bit host loads into a 64-bit container, and whatever the machine state the
prefix started from, the value it leaves there is below `2^16`, respectively `2^32`;
the one memory access among the ops carries neither `MO_SIGN` nor `MO_BSWAP`.  In a
store (`tcg_gen_qemu_st_i32_with_checked_addr_cond_invalidate`,
`tcg_gen_qemu_st_i64_with_checked_addr_cond_invalidate`) the swap is made on a temporary
`t` that is not among the temporaries of the caller, into which the prefix has put the
value of `val` zero-extended from the access size, and the ops of the store leave every
temporary of the caller, `val` among them, as it was. -/
theorem C30_swap_input_zero_extended (T : TCGTarget) (s : TCGContext)
    (val addr idx memop : Nat) (inv : Bool)
    (hB : T.TCG_TARGET_HAS_MEMORY_BSWAP = false) (hidx : idx < 16)
    (hv : val + T.w64 ≤ s.nb_temps) (ha : addr + T.aw ≤ s.nb_temps) :
    (∀ c, (tcg_canonicalize_memop T memop false false s).1 = some c → c &&& MO_BSWAP ≠ 0 →
      c &&& MO_SIZE = MO_16 →
      CalledAt (tcg_gen_qemu_ld_i32_with_checked_addr T val addr idx memop) s
        (tcg_gen_bswap16_i32 T val val) (fun _ m' => m'.regs val < 2 ^ 16) ∧
      ∃ δ op, emitted (tcg_gen_qemu_ld_i32_with_checked_addr T val addr idx memop) s =
          some δ ∧
        mem_accesses δ = [op] ∧ op.memop &&& MO_SIGN = 0 ∧ op.memop &&& MO_BSWAP = 0) ∧
    (∀ c, (tcg_canonicalize_memop T memop true false s).1 = some c → c &&& MO_BSWAP ≠ 0 →
      (c &&& MO_SIZE = MO_16 → T.reg64 = true →
        CalledAt (tcg_gen_qemu_ld_i64_with_checked_addr T val addr idx memop) s
          (tcg_gen_bswap16_i64 T val val) (fun _ m' => m'.get64 T val < 2 ^ 16)) ∧
      (c &&& MO_SIZE = MO_16 → T.reg64 = false →
        CalledAt (tcg_gen_qemu_ld_i64_with_checked_addr T val addr idx memop) s
          (tcg_gen_bswap16_i32 T (TCGV_LOW val) (TCGV_LOW val))
          (fun _ m' => m'.regs (TCGV_LOW val) < 2 ^ 16)) ∧
      (c &&& MO_SIZE = MO_32 → T.reg64 = true →
        CalledAt (tcg_gen_qemu_ld_i64_with_checked_addr T val addr idx memop) s
          (tcg_gen_bswap32_i64 T val val) (fun _ m' => m'.get64 T val < 2 ^ 32)) ∧
      (c &&& MO_SIZE ≠ MO_64 →
        ∃ δ op, emitted (tcg_gen_qemu_ld_i64_with_checked_addr T val addr idx memop) s =
            some δ ∧
          mem_accesses δ = [op] ∧ op.memop &&& MO_SIGN = 0 ∧ op.memop &&& MO_BSWAP = 0)) ∧
    (∀ c, (tcg_canonicalize_memop T memop false true s).1 = some c → c &&& MO_BSWAP ≠ 0 →
      c &&& MO_SIZE = MO_16 →
      (∃ t, s.nb_temps ≤ t ∧
        CalledAt (tcg_gen_qemu_st_i32_with_checked_addr_cond_invalidate T val addr idx memop
          inv) s (tcg_gen_bswap16_i32 T t t)
          (fun m m' => m'.regs t = m.regs val % 2 ^ 16)) ∧
      ∃ δ, emitted (tcg_gen_qemu_st_i32_with_checked_addr_cond_invalidate T val addr idx
          memop inv) s = some δ ∧
        ∀ m i, i < s.nb_temps → (run δ m).regs i = m.regs i) ∧
    (∀ c, (tcg_canonicalize_memop T memop true true s).1 = some c → c &&& MO_BSWAP ≠ 0 →
      (c &&& MO_SIZE = MO_16 → T.reg64 = true → ∃ t, s.nb_temps ≤ t ∧
        CalledAt (tcg_gen_qemu_st_i64_with_checked_addr_cond_invalidate T val addr idx memop
          inv) s (tcg_gen_bswap16_i64 T t t)
          (fun m m' => m'.get64 T t = m.get64 T val % 2 ^ 16)) ∧
      (c &&& MO_SIZE = MO_16 → T.reg64 = false → ∃ t, s.nb_temps ≤ t ∧
        CalledAt (tcg_gen_qemu_st_i64_with_checked_addr_cond_invalidate T val addr idx memop
          inv) s (tcg_gen_bswap16_i32 T t t)
          (fun m m' => m'.regs t = m.regs (TCGV_LOW val) % 2 ^ 16)) ∧
      (c &&& MO_SIZE = MO_32 → T.reg64 = true → ∃ t, s.nb_temps ≤ t ∧
        CalledAt (tcg_gen_qemu_st_i64_with_checked_addr_cond_invalidate T val addr idx memop
          inv) s (tcg_gen_bswap32_i64 T t t)
          (fun m m' => m'.get64 T t = m.get64 T val % 2 ^ 32)) ∧
      ∃ δ, emitted (tcg_gen_qemu_st_i64_with_checked_addr_cond_invalidate T val addr idx
          memop inv) s = some δ ∧
        ∀ m i, i < s.nb_temps → (run δ m).regs i = m.regs i) := by
  have hw1 := w64_pos T
  have hv1 : val < s.nb_temps := by omega
  refine ⟨fun c hc hb h16 => ?_, fun c hc hb => ?_, fun c hc hb h16 => ?_, fun c hc hb => ?_⟩
  · have hc' := tcg_canonicalize_memop_all T memop false false s c hc
    exact ⟨ld_i32_swap_called T s val addr idx memop c hB hidx hc' hb h16 hv1 ha,
      ld_i32_access_unsigned T s val addr idx memop c hB hidx hc' hb hv1 ha⟩
  · have hc' := tcg_canonicalize_memop_all T memop true false s c hc
    refine ⟨fun h16 hT => ?_, fun h16 hT => ?_, fun h32 hT => ?_, fun h64 => ?_⟩
    · exact ld_i64_swap16_called T s val addr idx memop c hT hB hidx hc' hb h16 hv ha
    · exact ld_i64_narrow_swap_called T s val addr idx memop c hT hB hidx
        (canonical_narrow T memop c false hc' h16) hb h16 hv ha
    · exact ld_i64_swap32_called T s val addr idx memop c hT hB hidx hc' hb h32 hv ha
    · exact ld_i64_access_unsigned T s val addr idx memop c hB hidx hc' hb h64 hv ha
  · have hc' := tcg_canonicalize_memop_all T memop false true s c hc
    obtain ⟨t, ht, h⟩ := st_i32_swap_called T s val addr idx memop c inv hB hidx hc' hb h16
      hv1 ha
    exact ⟨⟨t, ht, calledAt_mono h (fun _ _ q => q.1)⟩,
      emitted_keeps_temps (tcg_gen_qemu_st_i32_sem T idx memop c inv hidx hc' hv1 ha) s
        (le_refl _)⟩
  · have hc' := tcg_canonicalize_memop_all T memop true true s c hc
    refine ⟨fun h16 hT => ?_, fun h16 hT => ?_, fun h32 hT => ?_, ?_⟩
    · obtain ⟨t, ht, h, _⟩ := st_i64_swap_called T s val addr idx memop c inv hT hB hidx hc'
        hb hv ha
      exact ⟨t, ht, calledAt_mono (h h16) (fun _ _ q => q.1)⟩
    · have hsz := canonical_size_eq T memop true true s c (hc' s)
      rw [st_i64_narrow_eq T val addr idx memop inv hT (by rw [← hsz, h16]; decide)]
      obtain ⟨t, ht, h⟩ := st_i32_swap_called T s (TCGV_LOW val) addr idx memop c inv hB hidx
        (canonical_narrow T memop c true hc' h16) hb h16 hv1 ha
      exact ⟨t, ht, calledAt_mono h (fun _ _ q => q.1)⟩
    · obtain ⟨t, ht, _, h⟩ := st_i64_swap_called T s val addr idx memop c inv hT hB hidx hc'
        hb hv ha
      exact ⟨t, ht, calledAt_mono (h h32) (fun _ _ q => q.1)⟩
    · exact emitted_keeps_temps (tcg_gen_qemu_st_i64_sem T idx memop c inv hidx hc' hv ha) s
        (le_refl _)

/-- C30 at a concrete input: on the 64-bit host without optional ops the signed 16-bit
byte-swapped load into a 32-bit container calls `tcg_gen_bswap16_i32` on `val` when `val`
holds a value below `2^16`, and its one memory access is unsigned. -/
theorem C30_swap_input_zero_extended_witness :
    CalledAt (tcg_gen_qemu_ld_i32_with_checked_addr (TCGTarget.plain true) 0 1 0
        (MO_SW ||| MO_BSWAP)) (TCGContext.fresh 2)
      (tcg_gen_bswap16_i32 (TCGTarget.plain true) 0 0) (fun _ m' => m'.regs 0 < 2 ^ 16) ∧
    ∃ δ op, emitted (tcg_gen_qemu_ld_i32_with_checked_addr (TCGTarget.plain true) 0 1 0
        (MO_SW ||| MO_BSWAP)) (TCGContext.fresh 2) = some δ ∧
      mem_accesses δ = [op] ∧ op.memop &&& MO_SIGN = 0 ∧ op.memop &&& MO_BSWAP = 0 :=
  (C30_swap_input_zero_extended (TCGTarget.plain true) (TCGContext.fresh 2) 0 1 0
    (MO_SW ||| MO_BSWAP) true rfl (by decide) (by decide) (by decide)).1
    (MO_SW ||| MO_BSWAP) (by decide) (by decide) (by decide)

/-- C17: for N in 1..6, `tcg_gen_opN(opc, a1..aN)` returns with exactly one record
appended to the op stream, holding the opcode `opc` and the arguments `a1..aN` in
positions 0..N-1, every earlier record and the temporary counter unchanged;
consequently, for every lowering routine of `tcg-op.c`, under every capability
assignment and for every argument, the op stream on entry is a prefix of the op
stream the routine leaves, whether it returns or aborts.  The routines that take
a callback (`do_nonatomic_op_i32`, `do_nonatomic_op_i64`) are taken at the
callbacks the file passes them; the three translation-block exit routines act on
their own view of the context; `memop_rvfi_mask` and `get_memop_for_operation`
compute a value and are not given the context. -/
theorem C17_append_only (T : TCGTarget) (opc : TCGOpcode) (cond : TCGCond) (h : Helper)
    (field : RvfiField) (NAME : AtomicName) (routine : AtomicRoutine)
    (table : Nat → Option AtomicRoutine) (args args2 : List TCGArg) (vals : List Nat)
    (a1 a2 a3 a4 a5 a6 a7 : Nat) (p q : Bool) (l : TCGLabel) (C : TBConfig)
    (tbs : TBContext) (sign : GEN_OP_SIGN) (s : TCGContext) :
    tcg_gen_op1 opc a1 s = (some (), { s with ops := s.ops ++ [⟨opc, [a1]⟩] }) ∧
    tcg_gen_op2 opc a1 a2 s = (some (), { s with ops := s.ops ++ [⟨opc, [a1, a2]⟩] }) ∧
    tcg_gen_op3 opc a1 a2 a3 s = (some (), { s with ops := s.ops ++ [⟨opc, [a1, a2, a3]⟩] }) ∧
    tcg_gen_op4 opc a1 a2 a3 a4 s = (some (), { s with ops := s.ops ++ [⟨opc, [a1, a2, a3, a4]⟩] }) ∧
    tcg_gen_op5 opc a1 a2 a3 a4 a5 s = (some (), { s with ops := s.ops ++ [⟨opc, [a1, a2, a3, a4, a5]⟩] }) ∧
    tcg_gen_op6 opc a1 a2 a3 a4 a5 a6 s = (some (), { s with ops := s.ops ++ [⟨opc, [a1, a2, a3, a4, a5, a6]⟩] }) ∧
    Extends (tcg_gen_op1 opc a1) ∧
    Extends (tcg_gen_op2 opc a1 a2) ∧
    Extends (tcg_gen_op3 opc a1 a2 a3) ∧
    Extends (tcg_gen_op4 opc a1 a2 a3 a4) ∧
    Extends (tcg_gen_op5 opc a1 a2 a3 a4 a5) ∧
    Extends (tcg_gen_op6 opc a1 a2 a3 a4 a5 a6) ∧
    Extends (tcg_temp_new_i32) ∧
    Extends (tcg_temp_free_i32 a1) ∧
    Extends (tcg_gen_mov_i32 a1 a2) ∧
    Extends (tcg_gen_movi_i32 a1 a2) ∧
    Extends (tcg_const_i32 a1) ∧
    Extends (tcg_gen_add_i32 a1 a2 a3) ∧
    Extends (tcg_gen_sub_i32 a1 a2 a3) ∧
    Extends (tcg_gen_and_i32 a1 a2 a3) ∧
    Extends (tcg_gen_or_i32 a1 a2 a3) ∧
    Extends (tcg_gen_xor_i32 a1 a2 a3) ∧
    Extends (tcg_gen_shl_i32 a1 a2 a3) ∧
    Extends (tcg_gen_shr_i32 a1 a2 a3) ∧
    Extends (tcg_gen_sar_i32 a1 a2 a3) ∧
    Extends (tcg_gen_addi_i32 a1 a2 a3) ∧
    Extends (tcg_gen_subfi_i32 T a1 a2 a3) ∧
    Extends (tcg_gen_subi_i32 a1 a2 a3) ∧
    Extends (tcg_gen_andi_i32 T a1 a2 a3) ∧
    Extends (tcg_gen_xori_i32 T a1 a2 a3) ∧
    Extends (tcg_gen_neg_i32 T a1 a2) ∧
    Extends (tcg_gen_not_i32 T a1 a2) ∧
    Extends (tcg_gen_shli_i32 a1 a2 a3) ∧
    Extends (tcg_gen_shri_i32 a1 a2 a3) ∧
    Extends (tcg_gen_sari_i32 a1 a2 a3) ∧
    Extends (tcg_gen_ext8s_i32 T a1 a2) ∧
    Extends (tcg_gen_ext16s_i32 T a1 a2) ∧
    Extends (tcg_gen_ext8u_i32 T a1 a2) ∧
    Extends (tcg_gen_ext16u_i32 T a1 a2) ∧
    Extends (tcg_gen_setcond_i32 cond a1 a2 a3) ∧
    Extends (tcg_gen_andc_i32 T a1 a2 a3) ∧
    Extends (tcg_gen_rotl_i32 T a1 a2 a3) ∧
    Extends (tcg_gen_rotli_i32 T a1 a2 a3) ∧
    Extends (tcg_gen_rotr_i32 T a1 a2 a3) ∧
    Extends (tcg_gen_rotri_i32 T a1 a2 a3) ∧
    Extends (tcg_gen_deposit_i32 T a1 a2 a3 a4 a5) ∧
    Extends (tcg_gen_extract2_i32 T a1 a2 a3 a4) ∧
    Extends (tcg_gen_extract_i32 T a1 a2 a3 a4) ∧
    Extends (tcg_gen_sextract_i32 T a1 a2 a3 a4) ∧
    Extends (tcg_gen_movcond_i32 T cond a1 a2 a3 a4 a5) ∧
    Extends (tcg_gen_bswap16_i32 T a1 a2) ∧
    Extends (tcg_gen_bswap32_i32 T a1 a2) ∧
    Extends (tcg_gen_callN h args) ∧
    Extends (gen_helper_clz_i32 a1 a2 a3) ∧
    Extends (gen_helper_i64 T h a1 a2 a3) ∧
    Extends (tcg_temp_new_i64 T) ∧
    Extends (tcg_temp_free_i64 a1) ∧
    Extends (tcg_gen_mov_i64 T a1 a2) ∧
    Extends (tcg_gen_movi_i64 T a1 a2) ∧
    Extends (tcg_const_i64 T a1) ∧
    Extends (tcg_gen_and_i64 T a1 a2 a3) ∧
    Extends (tcg_gen_or_i64 T a1 a2 a3) ∧
    Extends (tcg_gen_xor_i64 T a1 a2 a3) ∧
    Extends (tcg_gen_add_i64 T a1 a2 a3) ∧
    Extends (tcg_gen_sub_i64 T a1 a2 a3) ∧
    Extends (tcg_gen_shl_i64 T a1 a2 a3) ∧
    Extends (tcg_gen_shr_i64 T a1 a2 a3) ∧
    Extends (tcg_gen_sar_i64 T a1 a2 a3) ∧
    Extends (tcg_gen_addi_i64 T a1 a2 a3) ∧
    Extends (tcg_gen_subfi_i64 T a1 a2 a3) ∧
    Extends (tcg_gen_subi_i64 T a1 a2 a3) ∧
    Extends (tcg_gen_andi_i64 T a1 a2 a3) ∧
    Extends (tcg_gen_xori_i64 T a1 a2 a3) ∧
    Extends (tcg_gen_shifti_i64 T a1 a2 a3 p q) ∧
    Extends (tcg_gen_shli_i64 T a1 a2 a3) ∧
    Extends (tcg_gen_shri_i64 T a1 a2 a3) ∧
    Extends (tcg_gen_sari_i64 T a1 a2 a3) ∧
    Extends (tcg_gen_setcond_i64 T cond a1 a2 a3) ∧
    Extends (tcg_gen_ext8s_i64 T a1 a2) ∧
    Extends (tcg_gen_ext16s_i64 T a1 a2) ∧
    Extends (tcg_gen_ext32s_i64 T a1 a2) ∧
    Extends (tcg_gen_ext8u_i64 T a1 a2) ∧
    Extends (tcg_gen_ext16u_i64 T a1 a2) ∧
    Extends (tcg_gen_ext32u_i64 T a1 a2) ∧
    Extends (tcg_gen_bswap16_i64 T a1 a2) ∧
    Extends (tcg_gen_bswap32_i64 T a1 a2) ∧
    Extends (tcg_gen_bswap64_i64 T a1 a2) ∧
    Extends (tcg_gen_not_i64 T a1 a2) ∧
    Extends (tcg_gen_neg_i64 T a1 a2) ∧
    Extends (tcg_gen_andc_i64 T a1 a2 a3) ∧
    Extends (tcg_gen_clz_i64 T a1 a2 a3) ∧
    Extends (tcg_gen_extrl_i64_i32 T a1 a2) ∧
    Extends (tcg_gen_extu_i32_i64 T a1 a2) ∧
    Extends (tcg_gen_clz_i32 T a1 a2 a3) ∧
    Extends (tcg_gen_clzi_i32 T a1 a2 a3) ∧
    Extends (tcg_gen_clzi_i64 T a1 a2 a3) ∧
    Extends (tcg_gen_rotl_i64 T a1 a2 a3) ∧
    Extends (tcg_gen_rotli_i64 T a1 a2 a3) ∧
    Extends (tcg_gen_rotri_i64 T a1 a2 a3) ∧
    Extends (tcg_gen_deposit_i64 T a1 a2 a3 a4 a5) ∧
    Extends (tcg_gen_extract2_i64 T a1 a2 a3 a4) ∧
    Extends (tcg_gen_extract_i64 T a1 a2 a3 a4) ∧
    Extends (tcg_gen_sextract_i64 T a1 a2 a3 a4) ∧
    Extends (tcg_gen_movcond_i64 T cond a1 a2 a3 a4 a5) ∧
    Extends (tcg_gen_smin_i32 T a1 a2 a3) ∧
    Extends (tcg_gen_umin_i32 T a1 a2 a3) ∧
    Extends (tcg_gen_smax_i32 T a1 a2 a3) ∧
    Extends (tcg_gen_umax_i32 T a1 a2 a3) ∧
    Extends (tcg_gen_smin_i64 T a1 a2 a3) ∧
    Extends (tcg_gen_umin_i64 T a1 a2 a3) ∧
    Extends (tcg_gen_smax_i64 T a1 a2 a3) ∧
    Extends (tcg_gen_umax_i64 T a1 a2 a3) ∧
    Extends (tcg_gen_abs_i32 a1 a2) ∧
    Extends (tcg_gen_abs_i64 T a1 a2) ∧
    Extends (tcg_gen_rotr_i64 T a1 a2 a3) ∧
    Extends (gen_helper_ctz_i32 a1 a2 a3) ∧
    Extends (gen_helper_ctpop_i32 a1 a2) ∧
    Extends (gen_helper_ctpop_i64 T a1 a2) ∧
    Extends (tcg_gen_ctpop_i32 T a1 a2) ∧
    Extends (tcg_gen_ctpop_i64 T a1 a2) ∧
    Extends (tcg_gen_ctz_i64 T a1 a2 a3) ∧
    Extends (tcg_gen_ctz_i32 T a1 a2 a3) ∧
    Extends (tcg_gen_ctzi_i32 T a1 a2 a3) ∧
    Extends (tcg_gen_ctzi_i64 T a1 a2 a3) ∧
    Extends (tcg_gen_ori_i32 a1 a2 a3) ∧
    Extends (tcg_gen_ori_i64 T a1 a2 a3) ∧
    Extends (tcg_gen_mul_i32 a1 a2 a3) ∧
    Extends (tcg_gen_muli_i32 a1 a2 a3) ∧
    Extends (tcg_gen_extrh_i64_i32 T a1 a2) ∧
    Extends (tcg_gen_ext_i32_i64 T a1 a2) ∧
    Extends (tcg_gen_extr_i64_i32 T a1 a2 a3) ∧
    Extends (tcg_gen_mul_i64 T a1 a2 a3 a4) ∧
    Extends (tcg_gen_mulu2_i32 T a1 a2 a3 a4 a5) ∧
    Extends (tcg_gen_muli_i64 T a1 a2 a3 a4) ∧
    Extends (tcg_gen_muls2_i32 T a1 a2 a3 a4 a5) ∧
    Extends (tcg_gen_add2_i64 T a1 a2 a3 a4 a5 a6) ∧
    Extends (tcg_gen_sub2_i64 T a1 a2 a3 a4 a5 a6) ∧
    Extends (tcg_gen_mulu2_i64 T a1 a2 a3 a4 a5) ∧
    Extends (tcg_gen_muls2_i64 T a1 a2 a3 a4 a5) ∧
    Extends (tb_cflags) ∧
    Extends (tcg_gen_mb a1) ∧
    Extends (tcg_gen_req_mo T a1) ∧
    Extends (get_alignment_bits T a1) ∧
    Extends (tcg_canonicalize_memop T a1 p q) ∧
    Extends (tcg_temp_new_cap_checked T) ∧
    Extends (tcg_gen_mov_tl T a1 a2) ∧
    Extends (gen_ldst_i32 T opc a1 a2 a3 a4) ∧
    Extends (gen_ldst_i64 T opc a1 a2 a3 a4) ∧
    Extends (trace_guest_mem_before_tcg T a1 a2) ∧
    Extends (plugin_prep_mem_callbacks T a1) ∧
    Extends (plugin_gen_empty_mem_callback a1 a2) ∧
    Extends (plugin_gen_mem_callbacks T a1 a2) ∧
    Extends (gen_cheri_invalidate_tags T a1 a2 a3) ∧
    Extends (gen_cheri_break_loadlink a1 a2) ∧
    Extends (gen_rvfi_dii_set_field T field a1) ∧
    Extends (gen_rvfi_dii_set_field_const_i32 T field a1) ∧
    Extends (tcg_gen_qemu_ld_i32_with_checked_addr T a1 a2 a3 a4) ∧
    Extends (handle_conditional_invalidate T a1 a2 a3) ∧
    Extends (tcg_gen_qemu_st_i32_with_checked_addr_cond_invalidate T a1 a2 a3 a4 p) ∧
    Extends (tcg_gen_qemu_st_i32_with_checked_addr T a1 a2 a3 a4) ∧
    Extends (tcg_gen_qemu_ld_i64_with_checked_addr T a1 a2 a3 a4) ∧
    Extends (tcg_gen_qemu_st_i64_with_checked_addr_cond_invalidate T a1 a2 a3 a4 p) ∧
    Extends (tcg_gen_qemu_st_i64_with_checked_addr T a1 a2 a3 a4) ∧
    Extends (tcg_gen_ext_i32 T a1 a2 a3) ∧
    Extends (tcg_gen_ext_i64 T a1 a2 a3) ∧
    Extends (gen_helper_atomic_i32 T routine a1 a2 vals args) ∧
    Extends (gen_helper_atomic_i64 T routine a1 a2 vals args) ∧
    Extends (gen_helper_exit_atomic) ∧
    Extends (tcg_gen_atomic_cmpxchg_i32_with_checked_addr T a1 a2 a3 a4 a5 a6) ∧
    Extends (tcg_gen_atomic_cmpxchg_i64_with_checked_addr T a1 a2 a3 a4 a5 a6) ∧
    Extends (do_nonatomic_op_i32 T a1 a2 a3 a4 a5 p (NAME.OP_i32 T) sign) ∧
    Extends (do_atomic_op_i32 T a1 a2 a3 a4 a5 table) ∧
    Extends (do_nonatomic_op_i64 T a1 a2 a3 a4 a5 p (NAME.OP_i64 T) sign) ∧
    Extends (do_atomic_op_i64 T a1 a2 a3 a4 a5 table) ∧
    Extends (tcg_gen_mov2_i32 a1 a2 a3) ∧
    Extends (tcg_gen_mov2_i64 T a1 a2 a3) ∧
    Extends (tcg_gen_atomic_NAME_i32 T NAME a1 a2 a3 a4 a5) ∧
    Extends (tcg_gen_atomic_NAME_i64 T NAME a1 a2 a3 a4 a5) ∧
    Extends (tcg_gen_br l) ∧
    Extends (tcg_gen_brcond_i32 cond a1 a2 l) ∧
    Extends (tcg_gen_brcondi_i32 cond a1 a2 l) ∧
    Extends (tcg_gen_setcondi_i32 cond a1 a2 a3) ∧
    Extends (gen_helper_div_i32 a1 a2 a3) ∧
    Extends (gen_helper_rem_i32 a1 a2 a3) ∧
    Extends (gen_helper_divu_i32 a1 a2 a3) ∧
    Extends (gen_helper_remu_i32 a1 a2 a3) ∧
    Extends (gen_helper_clrsb_i32 a1 a2) ∧
    Extends (gen_helper_div_i64 T a1 a2 a3) ∧
    Extends (gen_helper_rem_i64 T a1 a2 a3) ∧
    Extends (gen_helper_divu_i64 T a1 a2 a3) ∧
    Extends (gen_helper_remu_i64 T a1 a2 a3) ∧
    Extends (gen_helper_clrsb_i64 T a1 a2) ∧
    Extends (tcg_gen_div_i32 T a1 a2 a3) ∧
    Extends (tcg_gen_rem_i32 T a1 a2 a3) ∧
    Extends (tcg_gen_divu_i32 T a1 a2 a3) ∧
    Extends (tcg_gen_remu_i32 T a1 a2 a3) ∧
    Extends (tcg_gen_eqv_i32 T a1 a2 a3) ∧
    Extends (tcg_gen_nand_i32 T a1 a2 a3) ∧
    Extends (tcg_gen_nor_i32 T a1 a2 a3) ∧
    Extends (tcg_gen_orc_i32 T a1 a2 a3) ∧
    Extends (tcg_gen_clrsb_i32 T a1 a2) ∧
    Extends (tcg_gen_deposit_z_i32 T a1 a2 a3 a4) ∧
    Extends (tcg_gen_concat_i32_i64 T a1 a2 a3) ∧
    Extends (tcg_gen_add2_i32 T a1 a2 a3 a4 a5 a6) ∧
    Extends (tcg_gen_sub2_i32 T a1 a2 a3 a4 a5 a6) ∧
    Extends (tcg_gen_mulsu2_i32 T a1 a2 a3 a4 a5) ∧
    Extends (tcg_gen_discard_i32 a1) ∧
    Extends (tcg_gen_sync_i32 a1) ∧
    Extends (tcg_gen_ld8u_i32 a1 a2 a3) ∧
    Extends (tcg_gen_ld8s_i32 a1 a2 a3) ∧
    Extends (tcg_gen_ld16u_i32 a1 a2 a3) ∧
    Extends (tcg_gen_ld16s_i32 a1 a2 a3) ∧
    Extends (tcg_gen_ld_i32 a1 a2 a3) ∧
    Extends (tcg_gen_st_i32 a1 a2 a3) ∧
    Extends (tcg_gen_discard_i64 T a1) ∧
    Extends (tcg_gen_sync_i64 T a1) ∧
    Extends (tcg_gen_ld8u_i64 T a1 a2 a3) ∧
    Extends (tcg_gen_ld8s_i64 T a1 a2 a3) ∧
    Extends (tcg_gen_ld16u_i64 T a1 a2 a3) ∧
    Extends (tcg_gen_ld16s_i64 T a1 a2 a3) ∧
    Extends (tcg_gen_ld32u_i64 T a1 a2 a3) ∧
    Extends (tcg_gen_ld32s_i64 T a1 a2 a3) ∧
    Extends (tcg_gen_ld_i64 T a1 a2 a3) ∧
    Extends (tcg_gen_st_i64 T a1 a2 a3) ∧
    Extends (tcg_gen_brcond_i64 T cond a1 a2 l) ∧
    Extends (tcg_gen_brcondi_i64 T cond a1 a2 l) ∧
    Extends (tcg_gen_setcondi_i64 T cond a1 a2 a3) ∧
    Extends (tcg_gen_div_i64 T a1 a2 a3) ∧
    Extends (tcg_gen_rem_i64 T a1 a2 a3 a4) ∧
    Extends (tcg_gen_divu_i64 T a1 a2 a3) ∧
    Extends (tcg_gen_remu_i64 T a1 a2 a3 a4) ∧
    Extends (tcg_gen_eqv_i64 T a1 a2 a3) ∧
    Extends (tcg_gen_nand_i64 T a1 a2 a3) ∧
    Extends (tcg_gen_nor_i64 T a1 a2 a3) ∧
    Extends (tcg_gen_orc_i64 T a1 a2 a3) ∧
    Extends (tcg_gen_clrsb_i64 T a1 a2) ∧
    Extends (tcg_gen_deposit_z_i64 T a1 a2 a3 a4) ∧
    Extends (tcg_gen_mulsu2_i64 T a1 a2 a3 a4 a5) ∧
    Extends (tcg_gen_extr32_i64 T a1 a2 a3) ∧
    tbs.tb_ops <+: (tcg_gen_exit_tb C a1 a2 tbs).2.tb_ops ∧
    tbs.tb_ops <+: (tcg_gen_goto_tb C a1 tbs).2.tb_ops ∧
    tbs.tb_ops <+: (tcg_gen_lookup_and_goto_ptr T C tbs a1).2.1.tb_ops :=
  ⟨rfl, rfl, rfl, rfl, rfl, rfl,
   tcg_gen_op1_extends opc a1, tcg_gen_op2_extends opc a1 a2, tcg_gen_op3_extends opc a1 a2 a3,
   tcg_gen_op4_extends opc a1 a2 a3 a4, tcg_gen_op5_extends opc a1 a2 a3 a4 a5,
   tcg_gen_op6_extends opc a1 a2 a3 a4 a5 a6, Extends.of_new_i32, tcg_temp_free_i32_extends a1,
   tcg_gen_mov_i32_extends a1 a2, tcg_gen_movi_i32_extends a1 a2, tcg_const_i32_extends a1,
   tcg_gen_add_i32_extends a1 a2 a3, tcg_gen_sub_i32_extends a1 a2 a3, tcg_gen_and_i32_extends
   a1 a2 a3, tcg_gen_or_i32_extends a1 a2 a3, tcg_gen_xor_i32_extends a1 a2 a3,
   tcg_gen_shl_i32_extends a1 a2 a3, tcg_gen_shr_i32_extends a1 a2 a3, tcg_gen_sar_i32_extends
   a1 a2 a3, tcg_gen_addi_i32_extends a1 a2 a3, tcg_gen_subfi_i32_extends T a1 a2 a3,
   tcg_gen_subi_i32_extends a1 a2 a3, tcg_gen_andi_i32_extends T a1 a2 a3,
   tcg_gen_xori_i32_extends T a1 a2 a3, tcg_gen_neg_i32_extends T a1 a2, tcg_gen_not_i32_extends
   T a1 a2, tcg_gen_shli_i32_extends a1 a2 a3, tcg_gen_shri_i32_extends a1 a2 a3,
   tcg_gen_sari_i32_extends a1 a2 a3, tcg_gen_ext8s_i32_extends T a1 a2,
   tcg_gen_ext16s_i32_extends T a1 a2, tcg_gen_ext8u_i32_extends T a1 a2,
   tcg_gen_ext16u_i32_extends T a1 a2, tcg_gen_setcond_i32_extends cond a1 a2 a3,
   tcg_gen_andc_i32_extends T a1 a2 a3, tcg_gen_rotl_i32_extends T a1 a2 a3,
   tcg_gen_rotli_i32_extends T a1 a2 a3, tcg_gen_rotr_i32_extends T a1 a2 a3,
   tcg_gen_rotri_i32_extends T a1 a2 a3, tcg_gen_deposit_i32_extends T a1 a2 a3 a4 a5,
   tcg_gen_extract2_i32_extends T a1 a2 a3 a4, tcg_gen_extract_i32_extends T a1 a2 a3 a4,
   tcg_gen_sextract_i32_extends T a1 a2 a3 a4, tcg_gen_movcond_i32_extends T cond a1 a2 a3 a4
   a5, tcg_gen_bswap16_i32_extends T a1 a2, tcg_gen_bswap32_i32_extends T a1 a2,
   tcg_gen_callN_extends h args, gen_helper_clz_i32_extends a1 a2 a3, gen_helper_i64_extends T h
   a1 a2 a3, tcg_temp_new_i64_extends T, tcg_temp_free_i64_extends a1, tcg_gen_mov_i64_extends T
   a1 a2, tcg_gen_movi_i64_extends T a1 a2, tcg_const_i64_extends T a1, tcg_gen_and_i64_extends
   T a1 a2 a3, tcg_gen_or_i64_extends T a1 a2 a3, tcg_gen_xor_i64_extends T a1 a2 a3,
   tcg_gen_add_i64_extends T a1 a2 a3, tcg_gen_sub_i64_extends T a1 a2 a3,
   tcg_gen_shl_i64_extends T a1 a2 a3, tcg_gen_shr_i64_extends T a1 a2 a3,
   tcg_gen_sar_i64_extends T a1 a2 a3, tcg_gen_addi_i64_extends T a1 a2 a3,
   tcg_gen_subfi_i64_extends T a1 a2 a3, tcg_gen_subi_i64_extends T a1 a2 a3,
   tcg_gen_andi_i64_extends T a1 a2 a3, tcg_gen_xori_i64_extends T a1 a2 a3,
   tcg_gen_shifti_i64_extends T a1 a2 a3 p q, tcg_gen_shli_i64_extends T a1 a2 a3,
   tcg_gen_shri_i64_extends T a1 a2 a3, tcg_gen_sari_i64_extends T a1 a2 a3,
   tcg_gen_setcond_i64_extends T cond a1 a2 a3, tcg_gen_ext8s_i64_extends T a1 a2,
   tcg_gen_ext16s_i64_extends T a1 a2, tcg_gen_ext32s_i64_extends T a1 a2,
   tcg_gen_ext8u_i64_extends T a1 a2, tcg_gen_ext16u_i64_extends T a1 a2,
   tcg_gen_ext32u_i64_extends T a1 a2, tcg_gen_bswap16_i64_extends T a1 a2,
   tcg_gen_bswap32_i64_extends T a1 a2, tcg_gen_bswap64_i64_extends T a1 a2,
   tcg_gen_not_i64_extends T a1 a2, tcg_gen_neg_i64_extends T a1 a2, tcg_gen_andc_i64_extends T
   a1 a2 a3, tcg_gen_clz_i64_extends T a1 a2 a3, tcg_gen_extrl_i64_i32_extends T a1 a2,
   tcg_gen_extu_i32_i64_extends T a1 a2, tcg_gen_clz_i32_extends T a1 a2 a3,
   tcg_gen_clzi_i32_extends T a1 a2 a3, tcg_gen_clzi_i64_extends T a1 a2 a3,
   tcg_gen_rotl_i64_extends T a1 a2 a3, tcg_gen_rotli_i64_extends T a1 a2 a3,
   tcg_gen_rotri_i64_extends T a1 a2 a3, tcg_gen_deposit_i64_extends T a1 a2 a3 a4 a5,
   tcg_gen_extract2_i64_extends T a1 a2 a3 a4, tcg_gen_extract_i64_extends T a1 a2 a3 a4,
   tcg_gen_sextract_i64_extends T a1 a2 a3 a4, tcg_gen_movcond_i64_extends T cond a1 a2 a3 a4
   a5, tcg_gen_smin_i32_extends T a1 a2 a3, tcg_gen_umin_i32_extends T a1 a2 a3,
   tcg_gen_smax_i32_extends T a1 a2 a3, tcg_gen_umax_i32_extends T a1 a2 a3,
   tcg_gen_smin_i64_extends T a1 a2 a3, tcg_gen_umin_i64_extends T a1 a2 a3,
   tcg_gen_smax_i64_extends T a1 a2 a3, tcg_gen_umax_i64_extends T a1 a2 a3,
   tcg_gen_abs_i32_extends a1 a2, tcg_gen_abs_i64_extends T a1 a2, tcg_gen_rotr_i64_extends T a1
   a2 a3, gen_helper_ctz_i32_extends a1 a2 a3, gen_helper_ctpop_i32_extends a1 a2,
   gen_helper_ctpop_i64_extends T a1 a2, tcg_gen_ctpop_i32_extends T a1 a2,
   tcg_gen_ctpop_i64_extends T a1 a2, tcg_gen_ctz_i64_extends T a1 a2 a3,
   tcg_gen_ctz_i32_extends T a1 a2 a3, tcg_gen_ctzi_i32_extends T a1 a2 a3,
   tcg_gen_ctzi_i64_extends T a1 a2 a3, tcg_gen_ori_i32_extends a1 a2 a3,
   tcg_gen_ori_i64_extends T a1 a2 a3, tcg_gen_mul_i32_extends a1 a2 a3,
   tcg_gen_muli_i32_extends a1 a2 a3, tcg_gen_extrh_i64_i32_extends T a1 a2,
   tcg_gen_ext_i32_i64_extends T a1 a2, tcg_gen_extr_i64_i32_extends T a1 a2 a3,
   tcg_gen_mul_i64_extends T a1 a2 a3 a4, tcg_gen_mulu2_i32_extends T a1 a2 a3 a4 a5,
   tcg_gen_muli_i64_extends T a1 a2 a3 a4, tcg_gen_muls2_i32_extends T a1 a2 a3 a4 a5,
   tcg_gen_add2_i64_extends T a1 a2 a3 a4 a5 a6, tcg_gen_sub2_i64_extends T a1 a2 a3 a4 a5 a6,
   tcg_gen_mulu2_i64_extends T a1 a2 a3 a4 a5, tcg_gen_muls2_i64_extends T a1 a2 a3 a4 a5,
   Extends.of_cflags, tcg_gen_mb_extends a1, tcg_gen_req_mo_extends T a1,
   get_alignment_bits_extends T a1, tcg_canonicalize_memop_extends T a1 p q,
   tcg_temp_new_cap_checked_extends T, tcg_gen_mov_tl_extends T a1 a2, gen_ldst_i32_extends T
   opc a1 a2 a3 a4, gen_ldst_i64_extends T opc a1 a2 a3 a4, trace_guest_mem_before_tcg_extends T
   a1 a2, plugin_prep_mem_callbacks_extends T a1, plugin_gen_empty_mem_callback_extends a1 a2,
   plugin_gen_mem_callbacks_extends T a1 a2, gen_cheri_invalidate_tags_extends T a1 a2 a3,
   gen_cheri_break_loadlink_extends a1 a2, gen_rvfi_dii_set_field_extends T field a1,
   gen_rvfi_dii_set_field_const_i32_extends T field a1,
   tcg_gen_qemu_ld_i32_with_checked_addr_extends T a1 a2 a3 a4,
   handle_conditional_invalidate_extends T a1 a2 a3,
   tcg_gen_qemu_st_i32_with_checked_addr_cond_invalidate_extends T a1 a2 a3 a4 p,
   tcg_gen_qemu_st_i32_with_checked_addr_extends T a1 a2 a3 a4,
   tcg_gen_qemu_ld_i64_with_checked_addr_extends T a1 a2 a3 a4,
   tcg_gen_qemu_st_i64_with_checked_addr_cond_invalidate_extends T a1 a2 a3 a4 p,
   tcg_gen_qemu_st_i64_with_checked_addr_extends T a1 a2 a3 a4, tcg_gen_ext_i32_extends T a1 a2
   a3, tcg_gen_ext_i64_extends T a1 a2 a3, gen_helper_atomic_i32_extends T routine a1 a2 vals
   args, gen_helper_atomic_i64_extends T routine a1 a2 vals args,
   gen_helper_exit_atomic_extends, tcg_gen_atomic_cmpxchg_i32_with_checked_addr_extends T a1 a2
   a3 a4 a5 a6, tcg_gen_atomic_cmpxchg_i64_with_checked_addr_extends T a1 a2 a3 a4 a5 a6,
   do_nonatomic_op_i32_extends T a1 a2 a3 a4 a5 p (NAME.OP_i32 T) sign
   (AtomicName.OP_i32_extends T NAME), do_atomic_op_i32_extends T a1 a2 a3 a4 a5 table,
   do_nonatomic_op_i64_extends T a1 a2 a3 a4 a5 p (NAME.OP_i64 T) sign
   (AtomicName.OP_i64_extends T NAME), do_atomic_op_i64_extends T a1 a2 a3 a4 a5 table,
   tcg_gen_mov2_i32_extends a1 a2 a3, tcg_gen_mov2_i64_extends T a1 a2 a3,
   tcg_gen_atomic_NAME_i32_extends T NAME a1 a2 a3 a4 a5, tcg_gen_atomic_NAME_i64_extends T NAME
   a1 a2 a3 a4 a5, tcg_gen_br_extends l, tcg_gen_brcond_i32_extends cond a1 a2 l,
   tcg_gen_brcondi_i32_extends cond a1 a2 l, tcg_gen_setcondi_i32_extends cond a1 a2 a3,
   gen_helper_div_i32_extends a1 a2 a3, gen_helper_rem_i32_extends a1 a2 a3,
   gen_helper_divu_i32_extends a1 a2 a3, gen_helper_remu_i32_extends a1 a2 a3,
   gen_helper_clrsb_i32_extends a1 a2, gen_helper_div_i64_extends T a1 a2 a3,
   gen_helper_rem_i64_extends T a1 a2 a3, gen_helper_divu_i64_extends T a1 a2 a3,
   gen_helper_remu_i64_extends T a1 a2 a3, gen_helper_clrsb_i64_extends T a1 a2,
   tcg_gen_div_i32_extends T a1 a2 a3, tcg_gen_rem_i32_extends T a1 a2 a3,
   tcg_gen_divu_i32_extends T a1 a2 a3, tcg_gen_remu_i32_extends T a1 a2 a3,
   tcg_gen_eqv_i32_extends T a1 a2 a3, tcg_gen_nand_i32_extends T a1 a2 a3,
   tcg_gen_nor_i32_extends T a1 a2 a3, tcg_gen_orc_i32_extends T a1 a2 a3,
   tcg_gen_clrsb_i32_extends T a1 a2, tcg_gen_deposit_z_i32_extends T a1 a2 a3 a4,
   tcg_gen_concat_i32_i64_extends T a1 a2 a3, tcg_gen_add2_i32_extends T a1 a2 a3 a4 a5 a6,
   tcg_gen_sub2_i32_extends T a1 a2 a3 a4 a5 a6, tcg_gen_mulsu2_i32_extends T a1 a2 a3 a4 a5,
   tcg_gen_discard_i32_extends a1, tcg_gen_sync_i32_extends a1, tcg_gen_ld8u_i32_extends a1 a2
   a3, tcg_gen_ld8s_i32_extends a1 a2 a3, tcg_gen_ld16u_i32_extends a1 a2 a3,
   tcg_gen_ld16s_i32_extends a1 a2 a3, tcg_gen_ld_i32_extends a1 a2 a3, tcg_gen_st_i32_extends
   a1 a2 a3, tcg_gen_discard_i64_extends T a1, tcg_gen_sync_i64_extends T a1,
   tcg_gen_ld8u_i64_extends T a1 a2 a3, tcg_gen_ld8s_i64_extends T a1 a2 a3,
   tcg_gen_ld16u_i64_extends T a1 a2 a3, tcg_gen_ld16s_i64_extends T a1 a2 a3,
   tcg_gen_ld32u_i64_extends T a1 a2 a3, tcg_gen_ld32s_i64_extends T a1 a2 a3,
   tcg_gen_ld_i64_extends T a1 a2 a3, tcg_gen_st_i64_extends T a1 a2 a3,
   tcg_gen_brcond_i64_extends T cond a1 a2 l, tcg_gen_brcondi_i64_extends T cond a1 a2 l,
   tcg_gen_setcondi_i64_extends T cond a1 a2 a3, tcg_gen_div_i64_extends T a1 a2 a3,
   tcg_gen_rem_i64_extends T a1 a2 a3 a4, tcg_gen_divu_i64_extends T a1 a2 a3,
   tcg_gen_remu_i64_extends T a1 a2 a3 a4, tcg_gen_eqv_i64_extends T a1 a2 a3,
   tcg_gen_nand_i64_extends T a1 a2 a3, tcg_gen_nor_i64_extends T a1 a2 a3,
   tcg_gen_orc_i64_extends T a1 a2 a3, tcg_gen_clrsb_i64_extends T a1 a2,
   tcg_gen_deposit_z_i64_extends T a1 a2 a3 a4, tcg_gen_mulsu2_i64_extends T a1 a2 a3 a4 a5,
   tcg_gen_extr32_i64_extends T a1 a2 a3, tcg_gen_exit_tb_extends C a1 a2 tbs,
   tcg_gen_goto_tb_extends C a1 tbs, tcg_gen_lookup_and_goto_ptr_extends T C tbs a1⟩

end TCG
